import Mathlib

/-!
Shallow embedding of the Mastermind-style lock solver from `src/lib.ts`
(lockpick-challenge).  Codes are strings of colors; we embed them as
`List Char`.  JavaScript string indexing `s[i]` (which yields `undefined`
out of range) is embedded as `List.get?`; JS numbers that can go negative
are embedded as `Int`.  The process-wide memo cache of `calculateScore` is
omitted: it is a pure performance cache with no semantic content.
-/

set_option maxRecDepth 100000

namespace Lockpick

/-- A code (lock combination): embedded as the list of characters of the
JS string. -/
abbrev Code := List Char

/-- `type Score = { white: number, black: number }`.  JS numbers holding
(possibly negative) integers are embedded as `Int`. -/
structure Score where
  white : Int
  black : Int
deriving DecidableEq

/-- `const colors = ['B', 'G', 'O', 'R', 'Y', 'P']`. -/
def colors : List Char := ['B', 'G', 'O', 'R', 'Y', 'P']

/-- `const combinationLength = 4`. -/
def combinationLength : Nat := 4

/-- `const combinationIndices = _.range(combinationLength)`. -/
def combinationIndices : List Nat := List.range combinationLength

/-- `scoreEquals(left, right)`: componentwise equality of scores. -/
def scoreEquals (left right : Score) : Bool :=
  left.white == right.white && left.black == right.black

/-- The `g.forEach` loop of `calculateScore`: walk the non-matching guess
characters, and for each one that occurs in the list `p` of non-matching
possibility characters, count it and remove its first occurrence from `p`
(`p.indexOf(v)` / `p.splice(i, 1)`). -/
def whiteCount : List (Option Char) → List (Option Char) → Nat
  | [], _ => 0
  | v :: g, p => if v ∈ p then whiteCount g (p.erase v) + 1 else whiteCount g p

/-- `calculateScore(guess, possibility)` from `src/lib.ts` (memo cache
omitted).  `guess[i] != possibility[i]` on JS strings is embedded as
inequality of `Option Char` (`undefined` = `none`). -/
def calculateScore (guess possibility : Code) : Score :=
  let nonMatchingIndices := combinationIndices.filter
    (fun i => guess.get? i != possibility.get? i)
  let g := nonMatchingIndices.map (fun i => guess.get? i)
  let p := nonMatchingIndices.map (fun i => possibility.get? i)
  { white := (whiteCount g p : Int),
    black := (guess.length : Int) - (nonMatchingIndices.length : Int) }

/-- `isValidScore(possibility, guess, score)`. -/
def isValidScore (possibility : Code) (guess : Code) (score : Score) : Bool :=
  scoreEquals (calculateScore possibility guess) score

/-- `parePossibilities(possibilities, guess, score)`. -/
def parePossibilities (possibilities : List Code) (guess : Code) (score : Score) :
    List Code :=
  possibilities.filter (fun p => isValidScore p guess score)

/-- `permutateString(set, current, depth)`: recursive permutation
generator; `current.indexOf(i) == -1` is embedded as `!current.contains i`,
`colors[x]` as `colors.getD x ' '` (indices are always in range here). -/
def permutateString (set : List Nat) (current : List Nat) : Nat → List Code
  | 0 => [current.map (fun x => colors.getD x ' ')]
  | depth + 1 =>
      ((set.filter (fun i => !current.contains i)).map
        (fun i => permutateString set (current ++ [i]) depth)).foldl (· ++ ·) []

/-- `initializeSet()`: all 360 valid codes. -/
def initializeSet : List Code :=
  permutateString (List.range colors.length) [] combinationLength

/-- `getScoresForSum(sum)`. -/
def getScoresForSum (sum : Nat) : List Score :=
  (List.range (sum + 1)).map
    (fun white => { white := (white : Int), black := (sum : Int) - (white : Int) })

/-- `getAllPossibleScores()`. -/
def getAllPossibleScores : List Score :=
  ((List.range (combinationLength + 1)).map (fun sum => getScoresForSum sum)).foldl
    (· ++ ·) []

/-- `const allScores = getAllPossibleScores()`. -/
def allScores : List Score := getAllPossibleScores

/-- `Number.MAX_VALUE`, the initial minimum in `findNextGuess`
(= (2^53 − 1)·2^971, exactly representable in ℤ). -/
def numberMaxValue : Int := (2 ^ 53 - 1) * 2 ^ 971

/-- The two inner loops of `findNextGuess`: the worst-case (maximum over
all scores) count of remaining codes producing each score against
`possibility`. -/
def maxScoreCount (remaining : List Code) (possibility : Code) : Nat :=
  allScores.foldl
    (fun mx score =>
      Nat.max (remaining.countP
        (fun g => scoreEquals (calculateScore g possibility) score)) mx) 0

/-- The outer `for (let p ...)` loop of `findNextGuess`, threading the
state `(min, minCombination)`. -/
def selectLoop (remaining usedCodes : List Code) :
    List Code → Int × Code → Int × Code
  | [], acc => acc
  | possibility :: rest, acc =>
    if usedCodes.contains possibility then
      selectLoop remaining usedCodes rest acc
    else
      let mx := maxScoreCount remaining possibility
      if (mx : Int) < acc.1 then
        selectLoop remaining usedCodes rest ((mx : Int), possibility)
      else selectLoop remaining usedCodes rest acc

/-- `findNextGuess(remaining, usedCodes)` from `src/lib.ts`. -/
def findNextGuess (remaining : List Code) (usedCodes : List Code) : Code :=
  if remaining.length == 1 then remaining.headD []
  else (selectLoop remaining usedCodes remaining (numberMaxValue, [])).2

/-- Outcome of a run of the solve loop: the `solved` or `error` delegate
was invoked, or the supplied fuel ran out before the loop terminated. -/
inductive RunResult where
  | solved (answer : Code) (attempts : Nat)
  | fatal
  | fuelOut
deriving DecidableEq

/-- `colors.slice(0, combinationLength).join('')`, the hard-coded first
guess of `loop`. -/
def defaultFirstGuess : Code := colors.take combinationLength

/-- `loop(delegates, guess?, possibilities, usedCodes)` from `src/lib.ts`,
with the asynchronous `delegates.guess` callback embedded as a pure
function `guesser`, fuel added to bound the recursion, and the list of
guesses issued to the collaborator returned alongside the outcome (the
`Set<string>` of used codes is embedded as a duplicate-free list in
insertion order, so `usedCodes.size = usedCodes.length`).  The
`if (!guess)` test re-defaults every falsy guess: both `undefined`
(embedded as `none`) and the empty string `""` (embedded as `some []`)
are replaced by the hard-coded first guess. -/
def loopRun (guesser : Code → Score) :
    Nat → Option Code → List Code → List Code → RunResult × List Code
  | 0, _, _, _ => (RunResult.fuelOut, [])
  | fuel + 1, guessArg, possibilities, usedCodes =>
    let supplied := guessArg.getD []
    let guess := if supplied = [] then defaultFirstGuess else supplied
    let used := if usedCodes.contains guess then usedCodes else usedCodes ++ [guess]
    let score := guesser guess
    if score.black == (combinationLength : Int) then
      (RunResult.solved guess used.length, [guess])
    else if possibilities.length ≤ 1 then (RunResult.fatal, [guess])
    else
      let remaining := parePossibilities possibilities guess score
      let next := findNextGuess remaining used
      let r := loopRun guesser fuel (some next) remaining used
      (r.1, guess :: r.2)

/-- The honest collaborator of the test harness (`src/index.ts`): always
answers `calculateScore(secret, guess)`. -/
def honest (secret : Code) : Code → Score := fun guess => calculateScore secret guess

/-- A well-formed code: 4 pairwise-distinct colors from the 6-color
alphabet. -/
def WellFormed (c : Code) : Prop :=
  c.length = 4 ∧ c.Nodup ∧ ∀ x ∈ c, x ∈ colors

instance (c : Code) : Decidable (WellFormed c) := by
  unfold WellFormed; infer_instance

example : calculateScore "BBGG".toList "GOYP".toList = ⟨1, 0⟩ := by decide
example : calculateScore "BBGG".toList "BBGG".toList = ⟨0, 4⟩ := by decide
example : calculateScore "BPYG".toList "GPYB".toList = ⟨2, 2⟩ := by decide
example : calculateScore "OPYG".toList "GPYB".toList = ⟨1, 2⟩ := by decide
example : initializeSet.length = 360 := by decide

/-! ## Basic lemmas about scores -/

lemma scoreEquals_eq_decide (a b : Score) : scoreEquals a b = decide (a = b) := by
  cases a with
  | mk w1 b1 =>
    cases b with
    | mk w2 b2 =>
      by_cases h1 : w1 = w2 <;> by_cases h2 : b1 = b2 <;>
        simp [scoreEquals, h1, h2]

lemma scoreEquals_true_iff (a b : Score) : scoreEquals a b = true ↔ a = b := by
  rw [scoreEquals_eq_decide]; exact decide_eq_true_iff

/-- Scoring a code against itself: no position differs, so the score is
`(0, length)`. -/
lemma calculateScore_self (g : Code) :
    calculateScore g g = ⟨0, (g.length : Int)⟩ := by
  have h : combinationIndices.filter (fun i => g.get? i != g.get? i) = [] := by
    apply List.filter_eq_nil_iff.mpr
    intro i _
    simp
  simp [calculateScore, h, whiteCount]

/-! ## parePossibilities as a filter -/

lemma parePossibilities_sublist (S : List Code) (g : Code) (sc : Score) :
    (parePossibilities S g sc).Sublist S :=
  List.filter_sublist S

lemma mem_parePossibilities (S : List Code) (g : Code) (sc : Score) (c : Code) :
    c ∈ parePossibilities S g sc ↔ c ∈ S ∧ calculateScore c g = sc := by
  simp [parePossibilities, isValidScore, List.mem_filter, scoreEquals_true_iff]

lemma self_not_mem_parePossibilities (S : List Code) (g : Code) (sc : Score)
    (hg : g.length = 4) (hsc : sc.black ≠ 4) : g ∉ parePossibilities S g sc := by
  intro hmem
  rw [mem_parePossibilities] at hmem
  have := hmem.2
  rw [calculateScore_self, hg] at this
  apply hsc
  rw [← this]
  rfl

/-! ## Restructuring findNextGuess: score rows and precomputed worst counts -/

/-- The worst-case score-bucket size, computed from the row of scores of
`remaining` against a fixed possibility. -/
def maxCount (l : List Score) : Nat :=
  allScores.foldl (fun mx score => Nat.max (l.count score) mx) 0

/-- The row of scores of each remaining code against `possibility`. -/
def scoreRow (remaining : List Code) (possibility : Code) : List Score :=
  remaining.map (fun g => calculateScore g possibility)

lemma maxScoreCount_eq_maxCount (remaining : List Code) (possibility : Code) :
    maxScoreCount remaining possibility = maxCount (scoreRow remaining possibility) := by
  unfold maxScoreCount maxCount scoreRow
  congr 1
  funext mx score
  congr 1
  rw [List.count, List.countP_map]
  apply List.countP_congr
  intro g _
  simp only [Function.comp_apply, scoreEquals_eq_decide]
  rw [show ((calculateScore g possibility == score)) = decide (calculateScore g possibility = score) from rfl]

/-- `selectLoop` with all worst-case counts precomputed. -/
def selectPre : List (Code × Nat) → Int × Code → Int × Code
  | [], acc => acc
  | (p, w) :: rest, acc =>
    if (w : Int) < acc.1 then selectPre rest ((w : Int), p)
    else selectPre rest acc

lemma selectLoop_eq_selectPre (remaining usedCodes : List Code)
    (xs : List Code) (acc : Int × Code) :
    selectLoop remaining usedCodes xs acc =
      selectPre ((xs.filter (fun p => !usedCodes.contains p)).map
        (fun p => (p, maxScoreCount remaining p))) acc := by
  induction xs generalizing acc with
  | nil => rfl
  | cons p rest ih =>
    have hsel : selectLoop remaining usedCodes (p :: rest) acc =
        if usedCodes.contains p then selectLoop remaining usedCodes rest acc
        else if ((maxScoreCount remaining p : Int)) < acc.1 then
          selectLoop remaining usedCodes rest ((maxScoreCount remaining p : Int), p)
        else selectLoop remaining usedCodes rest acc := rfl
    rw [hsel]
    by_cases hp : usedCodes.contains p
    · rw [if_pos hp]
      have hf : (p :: rest).filter (fun q => !usedCodes.contains q) =
          rest.filter (fun q => !usedCodes.contains q) := by
        rw [List.filter_cons]
        simp only [hp, Bool.not_true, Bool.false_eq_true, if_false]
      rw [hf]
      exact ih acc
    · rw [if_neg hp]
      have hf : (p :: rest).filter (fun q => !usedCodes.contains q) =
          p :: rest.filter (fun q => !usedCodes.contains q) := by
        rw [List.filter_cons]
        simp only [Bool.not_eq_true', Bool.not_eq_false] at hp ⊢
        simp only [hp, Bool.not_false, if_true]
      rw [hf, List.map_cons]
      have hsel2 : selectPre ((p, maxScoreCount remaining p) ::
            (rest.filter (fun q => !usedCodes.contains q)).map
              (fun q => (q, maxScoreCount remaining q))) acc =
          if ((maxScoreCount remaining p : Int)) < acc.1 then
            selectPre ((rest.filter (fun q => !usedCodes.contains q)).map
              (fun q => (q, maxScoreCount remaining q)))
              ((maxScoreCount remaining p : Int), p)
          else selectPre ((rest.filter (fun q => !usedCodes.contains q)).map
              (fun q => (q, maxScoreCount remaining q))) acc := rfl
      rw [hsel2]
      by_cases hmx : ((maxScoreCount remaining p : Int)) < acc.1
      · rw [if_pos hmx, if_pos hmx]
        exact ih _
      · rw [if_neg hmx, if_neg hmx]
        exact ih acc

/-- The map sent to `selectPre`, with the worst counts phrased via rows. -/
lemma pairs_eq_rowPairs (remaining : List Code) (xs : List Code) :
    xs.map (fun p => (p, maxScoreCount remaining p)) =
      xs.map (fun p => (p, maxCount (scoreRow remaining p))) := by
  apply List.map_congr_left
  intro p _
  rw [maxScoreCount_eq_maxCount]

/-- `findNextGuess` on a no-used-overlap state, via precomputed pairs. -/
lemma findNextGuess_eq_selectPre (remaining usedCodes : List Code)
    (h1 : (remaining.length == 1) = false)
    (hU : ∀ p ∈ remaining, usedCodes.contains p = false) :
    findNextGuess remaining usedCodes =
      (selectPre (remaining.map (fun p => (p, maxCount (scoreRow remaining p))))
        (numberMaxValue, [])).2 := by
  unfold findNextGuess
  rw [h1]
  simp only [Bool.false_eq_true, if_false]
  rw [selectLoop_eq_selectPre]
  rw [List.filter_eq_self.mpr (by intro p hp; rw [hU p hp]; rfl)]
  rw [pairs_eq_rowPairs]

/-- When only one code remains, it is returned regardless of used codes. -/
lemma findNextGuess_singleton (x : Code) (usedCodes : List Code) :
    findNextGuess [x] usedCodes = x := rfl

/-- The result of `selectPre` is either the initial accumulator's code or
one of the listed candidates. -/
lemma selectPre_mem_or_acc (l : List (Code × Nat)) (acc : Int × Code) :
    (selectPre l acc).2 ∈ l.map Prod.fst ∨ (selectPre l acc).2 = acc.2 := by
  induction l generalizing acc with
  | nil => right; rfl
  | cons pw rest ih =>
    obtain ⟨p, w⟩ := pw
    have hstep : selectPre ((p, w) :: rest) acc =
        if ((w : Int)) < acc.1 then selectPre rest ((w : Int), p)
        else selectPre rest acc := rfl
    rw [hstep]
    by_cases hw : ((w : Int)) < acc.1
    · rw [if_pos hw]
      rcases ih ((w : Int), p) with h | h
      · left; exact List.mem_cons_of_mem _ h
      · left; rw [h]; exact List.mem_cons_self _ _
    · rw [if_neg hw]
      rcases ih acc with h | h
      · left; exact List.mem_cons_of_mem _ h
      · right; exact h

/-- Full characterization of `selectPre`: either no candidate beats the
initial minimum and the accumulator is returned unchanged, or the result
is the first candidate attaining the minimum among those below the
initial minimum. -/
lemma selectPre_char (l : List (Code × Nat)) (acc : Int × Code) :
    (selectPre l acc = acc ∧ ∀ qw ∈ l, acc.1 ≤ ((qw.2 : Int))) ∨
    (∃ i : Nat, ∃ pw : Code × Nat, l.get? i = some pw ∧
      selectPre l acc = (((pw.2 : Int)), pw.1) ∧ ((pw.2 : Int)) < acc.1 ∧
      (∀ qw ∈ l, ((pw.2 : Int)) ≤ ((qw.2 : Int)) ∨ acc.1 ≤ ((qw.2 : Int))) ∧
      (∀ j : Nat, j < i → ∀ qw : Code × Nat, l.get? j = some qw →
        ((pw.2 : Int)) < ((qw.2 : Int)))) := by
  induction l generalizing acc with
  | nil => left; exact ⟨rfl, by intro qw h; cases h⟩
  | cons pw0 rest ih =>
    obtain ⟨p, w⟩ := pw0
    have hstep : selectPre ((p, w) :: rest) acc =
        if ((w : Int)) < acc.1 then selectPre rest ((w : Int), p)
        else selectPre rest acc := rfl
    by_cases hw : ((w : Int)) < acc.1
    · rw [if_pos hw] at hstep
      rcases ih ((w : Int), p) with ⟨heq, hall⟩ | ⟨i, pw, hget, heq, hlt, hmin, hfirst⟩
      · right
        refine ⟨0, (p, w), rfl, by rw [hstep, heq], hw, ?_, ?_⟩
        · intro qw hq
          rcases List.mem_cons.mp hq with h | h
          · left; rw [h]
          · left; exact hall qw h
        · intro j hj qw hget'
          exact absurd hj (Nat.not_lt_zero j)
      · right
        refine ⟨i + 1, pw, hget, by rw [hstep, heq], lt_trans hlt hw, ?_, ?_⟩
        · intro qw hq
          rcases List.mem_cons.mp hq with h | h
          · left; rw [h]; exact le_of_lt hlt
          · rcases hmin qw h with h1 | h1
            · left; exact h1
            · left; exact le_trans (le_of_lt hlt) h1
        · intro j hj qw hget'
          cases j with
          | zero =>
            cases Option.some.inj hget'
            exact hlt
          | succ j' =>
            exact hfirst j' (Nat.lt_of_succ_lt_succ hj) qw hget'
    · rw [if_neg hw] at hstep
      rcases ih acc with ⟨heq, hall⟩ | ⟨i, pw, hget, heq, hlt, hmin, hfirst⟩
      · left
        refine ⟨by rw [hstep, heq], ?_⟩
        intro qw hq
        rcases List.mem_cons.mp hq with h | h
        · rw [h]; exact le_of_not_lt hw
        · exact hall qw h
      · right
        refine ⟨i + 1, pw, hget, by rw [hstep, heq], hlt, ?_, ?_⟩
        · intro qw hq
          rcases List.mem_cons.mp hq with h | h
          · right; rw [h]; exact le_of_not_lt hw
          · exact hmin qw h
        · intro j hj qw hget'
          cases j with
          | zero =>
            cases Option.some.inj hget'
            exact lt_of_lt_of_le hlt (le_of_not_lt hw)
          | succ j' =>
            exact hfirst j' (Nat.lt_of_succ_lt_succ hj) qw hget'

/-! ## Step lemmas for the solve loop -/

lemma loopRun_none (guesser : Code → Score) (fuel : Nat) (poss used : List Code) :
    loopRun guesser fuel none poss used =
      loopRun guesser fuel (some ("BGOR".toList)) poss used := by
  cases fuel with
  | zero => rfl
  | succ n => rfl

lemma loopRun_solved (guesser : Code → Score) (fuel : Nat) (g : Code)
    (poss used : List Code)
    (hb : ((guesser g).black == (combinationLength : Int)) = true)
    (hmem : used.contains g = false)
    (hne : g ≠ []) :
    loopRun guesser (fuel + 1) (some g) poss used =
      (RunResult.solved g (used.length + 1), [g]) := by
  simp only [loopRun, Option.getD_some, if_neg hne, hmem, hb, Bool.false_eq_true,
    if_false, if_true, List.length_append, List.length_cons, List.length_nil]

lemma loopRun_fatal (guesser : Code → Score) (fuel : Nat) (g : Code)
    (poss used : List Code)
    (hb : ((guesser g).black == (combinationLength : Int)) = false)
    (hlen : poss.length ≤ 1)
    (hmem : used.contains g = false)
    (hne : g ≠ []) :
    loopRun guesser (fuel + 1) (some g) poss used = (RunResult.fatal, [g]) := by
  simp only [loopRun, Option.getD_some, if_neg hne, hmem, hb, Bool.false_eq_true,
    if_false, hlen, if_true]

lemma loopRun_go (guesser : Code → Score) (fuel : Nat) (g : Code)
    (poss used : List Code)
    (hb : ((guesser g).black == (combinationLength : Int)) = false)
    (hlen : ¬ (poss.length ≤ 1))
    (hmem : used.contains g = false)
    (hne : g ≠ []) :
    loopRun guesser (fuel + 1) (some g) poss used =
      ((loopRun guesser fuel
          (some (findNextGuess (parePossibilities poss g (guesser g)) (used ++ [g])))
          (parePossibilities poss g (guesser g)) (used ++ [g])).1,
        g :: (loopRun guesser fuel
          (some (findNextGuess (parePossibilities poss g (guesser g)) (used ++ [g])))
          (parePossibilities poss g (guesser g)) (used ++ [g])).2) := by
  simp only [loopRun, Option.getD_some, if_neg hne, hmem, hb, Bool.false_eq_true,
    if_false, hlen, if_true]

/-- A loop iteration whose supplied guess is the empty string re-defaults
it to the hard-coded first guess (`if (!guess)` is true of `""`); when
that guess does not solve and at most one possibility remains, the
`error` delegate fires. -/
lemma loopRun_empty_fatal (guesser : Code → Score) (fuel : Nat)
    (poss used : List Code)
    (hb : ((guesser defaultFirstGuess).black == (combinationLength : Int)) = false)
    (hlen : poss.length ≤ 1) :
    loopRun guesser (fuel + 1) (some []) poss used =
      (RunResult.fatal, [defaultFirstGuess]) := by
  simp only [loopRun, Option.getD_some, if_pos rfl, hb, Bool.false_eq_true,
    if_false, hlen, if_true]

/-! ## Characterizing the white count for duplicate-free guesses -/

lemma whiteCount_erase_of_not_mem (g : List (Option Char)) (v : Option Char)
    (p : List (Option Char)) (hv : v ∉ g) :
    whiteCount g (p.erase v) = whiteCount g p := by
  induction g generalizing p with
  | nil => rfl
  | cons u g' ih =>
    have huv : u ≠ v := fun h => hv (h ▸ List.mem_cons_self u g')
    have hv' : v ∉ g' := fun h => hv (List.mem_cons_of_mem _ h)
    by_cases hu : u ∈ p
    · rw [whiteCount, if_pos ((List.mem_erase_of_ne huv).mpr hu), whiteCount,
        if_pos hu, List.erase_comm, ih _ hv']
    · rw [whiteCount, if_neg (fun h => hu ((List.mem_erase_of_ne huv).mp h)),
        whiteCount, if_neg hu, ih _ hv']

lemma whiteCount_eq_countP (g p : List (Option Char)) (hg : g.Nodup) :
    whiteCount g p = g.countP (fun v => decide (v ∈ p)) := by
  induction g generalizing p with
  | nil => rfl
  | cons u g' ih =>
    have hu' : u ∉ g' := (List.nodup_cons.mp hg).1
    have hg' : g'.Nodup := (List.nodup_cons.mp hg).2
    by_cases hu : u ∈ p
    · rw [whiteCount, if_pos hu, whiteCount_erase_of_not_mem _ _ _ hu', ih _ hg',
        List.countP_cons]
      simp [hu]
    · rw [whiteCount, if_neg hu, ih _ hg', List.countP_cons]
      simp [hu]

/-- The indices (among 0..3) where the two codes differ, as computed
inside `calculateScore`. -/
def nonMatching (a b : Code) : List Nat :=
  combinationIndices.filter (fun i => a.get? i != b.get? i)

lemma nonMatching_map_nodup (a b : Code) (ha : a.Nodup) (h4 : a.length = 4) :
    ((nonMatching a b).map (fun i => a.get? i)).Nodup := by
  apply List.Nodup.map_on
  · intro i hi j hj hij
    have hi4 : i < 4 := List.mem_range.mp (List.mem_of_mem_filter hi)
    exact List.get?_inj (h4 ▸ hi4) ha hij
  · exact (List.nodup_range 4).filter _

lemma calculateScore_filter_form (a b : Code) (ha : a.Nodup) (h4 : a.length = 4) :
    calculateScore a b =
      ⟨((((nonMatching a b).map (fun i => a.get? i)).filter
          (fun v => decide (v ∈ (nonMatching a b).map (fun i => b.get? i)))).length : Int),
        (a.length : Int) - ((nonMatching a b).length : Int)⟩ := by
  have h : calculateScore a b =
      ⟨(whiteCount ((nonMatching a b).map (fun i => a.get? i))
          ((nonMatching a b).map (fun i => b.get? i)) : Int),
        (a.length : Int) - ((nonMatching a b).length : Int)⟩ := rfl
  rw [h, whiteCount_eq_countP _ _ (nonMatching_map_nodup a b ha h4),
    List.countP_eq_length_filter]

lemma nonMatching_comm (a b : Code) : nonMatching a b = nonMatching b a := by
  unfold nonMatching
  apply List.filter_congr
  intro i _
  unfold bne
  rw [Bool.beq_comm]

lemma filter_mem_length_comm (g p : List (Option Char)) (hg : g.Nodup) (hp : p.Nodup) :
    (g.filter (fun v => decide (v ∈ p))).length =
      (p.filter (fun v => decide (v ∈ g))).length := by
  have h1 : (g.filter (fun v => decide (v ∈ p))).Nodup := hg.filter _
  have h2 : (p.filter (fun v => decide (v ∈ g))).Nodup := hp.filter _
  rw [← List.toFinset_card_of_nodup h1, ← List.toFinset_card_of_nodup h2]
  congr 1
  ext x
  simp only [List.mem_toFinset, List.mem_filter, decide_eq_true_eq]
  exact and_comm

/-- The scoring function is symmetric on well-formed codes. -/
lemma calculateScore_comm (a b : Code) (ha : WellFormed a) (hb : WellFormed b) :
    calculateScore a b = calculateScore b a := by
  obtain ⟨ha4, haN, _⟩ := ha
  obtain ⟨hb4, hbN, _⟩ := hb
  rw [calculateScore_filter_form a b haN ha4, calculateScore_filter_form b a hbN hb4]
  have hnm : nonMatching b a = nonMatching a b := nonMatching_comm b a
  rw [hnm]
  congr 1
  · rw [filter_mem_length_comm ((nonMatching a b).map (fun i => a.get? i))
      ((nonMatching a b).map (fun i => b.get? i))
      (nonMatching_map_nodup a b haN ha4)
      (by rw [← hnm]; exact nonMatching_map_nodup b a hbN hb4)]
  · rw [ha4, hb4]

/-! ## Arithmetic encoding of codes and scores

To keep kernel evaluation cheap (GMP-backed `Nat` arithmetic instead of
list recursion), codes are encoded as base-8 numbers of their color
indices and scores as `8 * black + white`; the encoded scorer is proved
equal to `calculateScore` on well-formed codes. -/

/-- The index of a color in the 6-color alphabet (8 for other chars). -/
def colorIdx (c : Char) : Nat :=
  if c = 'B' then 0 else if c = 'G' then 1 else if c = 'O' then 2
  else if c = 'R' then 3 else if c = 'Y' then 4 else if c = 'P' then 5 else 8

/-- Base-8 encoding of a 4-color code. -/
def encCode : Code → Nat
  | [c1, c2, c3, c4] =>
    colorIdx c1 + 8 * colorIdx c2 + 64 * colorIdx c3 + 512 * colorIdx c4
  | _ => 8888

/-- Build a code from four color indices (shares the characters of
`colors`, keeping kernel terms small). -/
def mkCode (a b c d : Nat) : Code :=
  [colors.getD a ' ', colors.getD b ' ', colors.getD c ' ', colors.getD d ' ']

/-- 1 if the two numbers are equal, else 0. -/
def eqb (x y : Nat) : Nat := if x == y then 1 else 0

/-- Number of positions (of 4) where the base-8 digits agree. -/
def fastBlack (x y : Nat) : Nat :=
  eqb (x % 8) (y % 8) + eqb (x / 8 % 8) (y / 8 % 8) +
    eqb (x / 64 % 8) (y / 64 % 8) + eqb (x / 512 % 8) (y / 512 % 8)

/-- 1 if `u` occurs among the four base-8 digits of `y` (digit-distinct
`y`), else 0. -/
def memb (u y : Nat) : Nat :=
  eqb u (y % 8) + eqb u (y / 8 % 8) + eqb u (y / 64 % 8) + eqb u (y / 512 % 8)

/-- Number of digits of `x` occurring among the digits of `y`. -/
def fastCommon (x y : Nat) : Nat :=
  memb (x % 8) y + memb (x / 8 % 8) y + memb (x / 64 % 8) y + memb (x / 512 % 8) y

/-- Encoded score (`8 * black + white`) of two encoded codes. -/
def fastIdx (x y : Nat) : Nat :=
  8 * fastBlack x y + (fastCommon x y - fastBlack x y)

/-- Decode an encoded score. -/
def decodeScore (n : Nat) : Score := ⟨((n % 8 : Nat) : Int), ((n / 8 : Nat) : Int)⟩

/-- Encode a score. -/
def encScore (s : Score) : Nat := 8 * s.black.toNat + s.white.toNat

lemma colorIdx_lt_eight : ∀ u ∈ colors, colorIdx u < 8 := by decide

lemma colorIdx_inj : ∀ u ∈ colors, ∀ v ∈ colors,
    colorIdx u = colorIdx v → u = v := by decide

lemma eqb_colorIdx (u v : Char) (hu : u ∈ colors) (hv : v ∈ colors) :
    eqb (colorIdx u) (colorIdx v) = if u = v then 1 else 0 := by
  by_cases h : u = v
  · rw [if_pos h, h, eqb, if_pos (by simp)]
  · rw [if_neg h, eqb, if_neg ?_]
    simp only [beq_iff_eq]
    exact fun hc => h (colorIdx_inj u hu v hv hc)

lemma enc_digits (c1 c2 c3 c4 : Char) (h1 : c1 ∈ colors) (h2 : c2 ∈ colors)
    (h3 : c3 ∈ colors) (h4 : c4 ∈ colors) :
    encCode [c1, c2, c3, c4] % 8 = colorIdx c1 ∧
    encCode [c1, c2, c3, c4] / 8 % 8 = colorIdx c2 ∧
    encCode [c1, c2, c3, c4] / 64 % 8 = colorIdx c3 ∧
    encCode [c1, c2, c3, c4] / 512 % 8 = colorIdx c4 := by
  have b1 := colorIdx_lt_eight c1 h1
  have b2 := colorIdx_lt_eight c2 h2
  have b3 := colorIdx_lt_eight c3 h3
  have b4 := colorIdx_lt_eight c4 h4
  have he : encCode [c1, c2, c3, c4] =
      colorIdx c1 + 8 * colorIdx c2 + 64 * colorIdx c3 + 512 * colorIdx c4 := rfl
  rw [he]
  omega

lemma length_eq_four {α : Type} (l : List α) (h : l.length = 4) :
    ∃ x1 x2 x3 x4, l = [x1, x2, x3, x4] := by
  match l, h with
  | [x1, x2, x3, x4], _ => exact ⟨x1, x2, x3, x4, rfl⟩

lemma countP_filter_split {α : Type} (p q : α → Bool) (l : List α) :
    l.countP p = (l.filter q).countP p + (l.filter (fun x => !q x)).countP p := by
  induction l with
  | nil => rfl
  | cons x t ih =>
    by_cases hq : q x <;> by_cases hp : p x <;>
      simp [List.countP_cons, List.filter_cons, hq, hp, ih] <;> omega

lemma memb_colorIdx (u b1 b2 b3 b4 : Char) (hu : u ∈ colors)
    (h1 : b1 ∈ colors) (h2 : b2 ∈ colors) (h3 : b3 ∈ colors) (h4 : b4 ∈ colors)
    (hnd : ([b1, b2, b3, b4] : List Char).Nodup) :
    memb (colorIdx u) (encCode [b1, b2, b3, b4]) =
      if u ∈ [b1, b2, b3, b4] then 1 else 0 := by
  obtain ⟨d1, d2, d3, d4⟩ := enc_digits b1 b2 b3 b4 h1 h2 h3 h4
  rw [memb, d1, d2, d3, d4, eqb_colorIdx u b1 hu h1, eqb_colorIdx u b2 hu h2,
    eqb_colorIdx u b3 hu h3, eqb_colorIdx u b4 hu h4]
  simp only [List.nodup_cons, List.mem_cons, List.not_mem_nil, or_false,
    List.nodup_nil, and_true] at hnd
  by_cases e1 : u = b1 <;> by_cases e2 : u = b2 <;> by_cases e3 : u = b3 <;>
    by_cases e4 : u = b4 <;> simp_all

/-- Position-match predicate. -/
def matchPred (a b : Code) : Nat → Bool := fun i => a.get? i == b.get? i

/-- Predicate: the color of `a` at position `i` occurs anywhere in `b`. -/
def aMemPred (a b : Code) : Nat → Bool := fun i => decide (a.get? i ∈ b.map some)

/-- The matching positions. -/
def matchingIdx (a b : Code) : List Nat := combinationIndices.filter (matchPred a b)

lemma nonMatching_eq_filter_not (a b : Code) :
    nonMatching a b = combinationIndices.filter (fun i => !(matchPred a b i)) := rfl

lemma matchingIdx_countP_aMem (a b : Code) (hb4 : b.length = 4) :
    (matchingIdx a b).countP (aMemPred a b) = (matchingIdx a b).length := by
  rw [List.countP_eq_length]
  intro i hi
  have hp := List.of_mem_filter hi
  have hi4 : i < 4 := List.mem_range.mp (List.mem_of_mem_filter hi)
  have heq : a.get? i = b.get? i := by
    have := hp
    unfold matchPred at this
    exact eq_of_beq this
  have hlt : i < b.length := hb4 ▸ hi4
  rw [aMemPred, heq, List.get?_eq_get hlt]
  simp [List.mem_map]

lemma nm_countP_aMem (a b : Code) (haN : a.Nodup) (ha4 : a.length = 4)
    (hb4 : b.length = 4) :
    (nonMatching a b).countP (aMemPred a b) =
      (nonMatching a b).countP
        (fun i => decide (a.get? i ∈ (nonMatching a b).map (fun j => b.get? j))) := by
  apply List.countP_congr
  intro i hi
  have hi4 : i < 4 := List.mem_range.mp (List.mem_of_mem_filter hi)
  constructor
  · intro h
    rw [aMemPred] at h
    have hmem : a.get? i ∈ b.map some := of_decide_eq_true h
    obtain ⟨c, hc, hce⟩ := List.mem_map.mp hmem
    obtain ⟨j, hj⟩ := List.mem_iff_get.mp hc
    have hj4 : (j : Nat) < 4 := hb4 ▸ j.isLt
    have hbget : b.get? (j : Nat) = some c := by
      rw [List.get?_eq_get j.isLt, hj]
    apply decide_eq_true
    rw [List.mem_map]
    refine ⟨(j : Nat), ?_, hbget.trans hce⟩
    cases hq : matchPred a b (j : Nat) with
    | false =>
      rw [nonMatching_eq_filter_not]
      apply List.mem_filter.mpr
      exact ⟨List.mem_range.mpr hj4, by rw [hq]; rfl⟩
    | true =>
    exfalso
    have hjmatch : matchPred a b (j : Nat) = true := hq
    have haj : a.get? (j : Nat) = b.get? (j : Nat) := eq_of_beq hjmatch
    have haij : a.get? i = a.get? (j : Nat) := by
      rw [haj, hbget]
      exact hce.symm
    have hij : i = (j : Nat) := List.get?_inj (ha4 ▸ hi4) haN haij
    have hbad := List.of_mem_filter (hij ▸ hi : (j : Nat) ∈ nonMatching a b)
    rw [nonMatching_eq_filter_not ] at hi
    have hcontra := List.of_mem_filter (hij ▸ hi)
    rw [hjmatch] at hcontra
    simp at hcontra
  · intro h
    have hmem := of_decide_eq_true h
    obtain ⟨j, hjnm, hje⟩ := List.mem_map.mp hmem
    have hj4 : j < 4 := List.mem_range.mp (List.mem_of_mem_filter hjnm)
    apply decide_eq_true
    rw [← hje, List.get?_eq_get (hb4 ▸ hj4 : j < b.length)]
    exact List.mem_map_of_mem some (List.get_mem b j _)

/-- The arithmetic scorer agrees with `calculateScore` on well-formed
codes. -/
theorem calc_eq_fast (a b : Code) (ha : WellFormed a) (hb : WellFormed b) :
    calculateScore a b = decodeScore (fastIdx (encCode a) (encCode b)) := by
  obtain ⟨haL, haN, haC⟩ := ha
  obtain ⟨hbL, hbN, hbC⟩ := hb
  rw [calculateScore_filter_form a b haN haL]
  have hwhite : ((((nonMatching a b).map (fun i => a.get? i)).filter
      (fun v => decide (v ∈ (nonMatching a b).map (fun i => b.get? i)))).length) =
      (nonMatching a b).countP
        (fun i => decide (a.get? i ∈ (nonMatching a b).map (fun j => b.get? j))) := by
    rw [← List.countP_eq_length_filter, List.countP_map]
    rfl
  have hsplit := countP_filter_split (aMemPred a b) (matchPred a b) combinationIndices
  have h1 := matchingIdx_countP_aMem a b hbL
  have h2 := nm_countP_aMem a b haN haL hbL
  have hF2 := countP_filter_split (fun _ => true) (matchPred a b) combinationIndices
  simp only [List.countP_true] at hF2
  obtain ⟨a1, a2, a3, a4, rfl⟩ := length_eq_four a haL
  obtain ⟨b1, b2, b3, b4, rfl⟩ := length_eq_four b hbL
  have ha1 : a1 ∈ colors := haC a1 (by simp)
  have ha2 : a2 ∈ colors := haC a2 (by simp)
  have ha3 : a3 ∈ colors := haC a3 (by simp)
  have ha4 : a4 ∈ colors := haC a4 (by simp)
  have hb1 : b1 ∈ colors := hbC b1 (by simp)
  have hb2 : b2 ∈ colors := hbC b2 (by simp)
  have hb3 : b3 ∈ colors := hbC b3 (by simp)
  have hb4 : b4 ∈ colors := hbC b4 (by simp)
  obtain ⟨da1, da2, da3, da4⟩ := enc_digits a1 a2 a3 a4 ha1 ha2 ha3 ha4
  obtain ⟨db1, db2, db3, db4⟩ := enc_digits b1 b2 b3 b4 hb1 hb2 hb3 hb4
  have em0 : matchPred [a1, a2, a3, a4] [b1, b2, b3, b4] 0 = (a1 == b1) := rfl
  have em1 : matchPred [a1, a2, a3, a4] [b1, b2, b3, b4] 1 = (a2 == b2) := rfl
  have em2 : matchPred [a1, a2, a3, a4] [b1, b2, b3, b4] 2 = (a3 == b3) := rfl
  have em3 : matchPred [a1, a2, a3, a4] [b1, b2, b3, b4] 3 = (a4 == b4) := rfl
  have ea0 : aMemPred [a1, a2, a3, a4] [b1, b2, b3, b4] 0 =
      decide (some a1 ∈ [some b1, some b2, some b3, some b4]) := rfl
  have ea1 : aMemPred [a1, a2, a3, a4] [b1, b2, b3, b4] 1 =
      decide (some a2 ∈ [some b1, some b2, some b3, some b4]) := rfl
  have ea2 : aMemPred [a1, a2, a3, a4] [b1, b2, b3, b4] 2 =
      decide (some a3 ∈ [some b1, some b2, some b3, some b4]) := rfl
  have ea3 : aMemPred [a1, a2, a3, a4] [b1, b2, b3, b4] 3 =
      decide (some a4 ∈ [some b1, some b2, some b3, some b4]) := rfl
  have hblack : fastBlack (encCode [a1, a2, a3, a4]) (encCode [b1, b2, b3, b4]) =
      (matchingIdx [a1, a2, a3, a4] [b1, b2, b3, b4]).length := by
    rw [fastBlack, da1, da2, da3, da4, db1, db2, db3, db4,
      eqb_colorIdx a1 b1 ha1 hb1, eqb_colorIdx a2 b2 ha2 hb2,
      eqb_colorIdx a3 b3 ha3 hb3, eqb_colorIdx a4 b4 ha4 hb4, matchingIdx]
    show _ = (List.filter _ [0, 1, 2, 3]).length
    rw [← List.countP_eq_length_filter]
    simp only [List.countP_cons, List.countP_nil, em0, em1, em2, em3, beq_iff_eq]
    by_cases e1 : a1 = b1 <;> by_cases e2 : a2 = b2 <;> by_cases e3 : a3 = b3 <;>
      by_cases e4 : a4 = b4 <;> simp [e1, e2, e3, e4]
  have hcommon : fastCommon (encCode [a1, a2, a3, a4]) (encCode [b1, b2, b3, b4]) =
      combinationIndices.countP (aMemPred [a1, a2, a3, a4] [b1, b2, b3, b4]) := by
    rw [fastCommon, da1, da2, da3, da4,
      memb_colorIdx a1 b1 b2 b3 b4 ha1 hb1 hb2 hb3 hb4 hbN,
      memb_colorIdx a2 b1 b2 b3 b4 ha2 hb1 hb2 hb3 hb4 hbN,
      memb_colorIdx a3 b1 b2 b3 b4 ha3 hb1 hb2 hb3 hb4 hbN,
      memb_colorIdx a4 b1 b2 b3 b4 ha4 hb1 hb2 hb3 hb4 hbN]
    show _ = List.countP _ [0, 1, 2, 3]
    simp only [List.countP_cons, List.countP_nil, ea0, ea1, ea2, ea3,
      decide_eq_true_eq, List.mem_cons, List.not_mem_nil, or_false,
      Option.some.injEq]
    by_cases m1 : a1 = b1 ∨ a1 = b2 ∨ a1 = b3 ∨ a1 = b4 <;>
      by_cases m2 : a2 = b1 ∨ a2 = b2 ∨ a2 = b3 ∨ a2 = b4 <;>
      by_cases m3 : a3 = b1 ∨ a3 = b2 ∨ a3 = b3 ∨ a3 = b4 <;>
      by_cases m4 : a4 = b1 ∨ a4 = b2 ∨ a4 = b3 ∨ a4 = b4 <;>
      simp [m1, m2, m3, m4]
  have hfi : fastIdx (encCode [a1, a2, a3, a4]) (encCode [b1, b2, b3, b4]) =
      8 * fastBlack (encCode [a1, a2, a3, a4]) (encCode [b1, b2, b3, b4]) +
        (fastCommon (encCode [a1, a2, a3, a4]) (encCode [b1, b2, b3, b4]) -
          fastBlack (encCode [a1, a2, a3, a4]) (encCode [b1, b2, b3, b4])) := rfl
  have hdec : decodeScore (fastIdx (encCode [a1, a2, a3, a4]) (encCode [b1, b2, b3, b4])) =
      ⟨((fastIdx (encCode [a1, a2, a3, a4]) (encCode [b1, b2, b3, b4]) % 8 : Nat) : Int),
        ((fastIdx (encCode [a1, a2, a3, a4]) (encCode [b1, b2, b3, b4]) / 8 : Nat) : Int)⟩ := rfl
  rw [hdec, hwhite]
  have hwle := List.countP_le_length
    (p := fun i => decide (List.get? [a1, a2, a3, a4] i ∈
      (nonMatching [a1, a2, a3, a4] [b1, b2, b3, b4]).map
        (fun j => List.get? [b1, b2, b3, b4] j)))
    (l := nonMatching [a1, a2, a3, a4] [b1, b2, b3, b4])
  have hnm4 : (nonMatching [a1, a2, a3, a4] [b1, b2, b3, b4]).length ≤ 4 := by
    rw [nonMatching_eq_filter_not]
    calc (List.filter _ combinationIndices).length ≤ combinationIndices.length :=
          List.length_filter_le _ _
      _ = 4 := rfl
  unfold matchingIdx at h1 hblack
  rw [nonMatching_eq_filter_not] at h2 hwhite hwle hnm4 ⊢
  rw [show ([a1, a2, a3, a4] : Code).length = 4 from rfl]
  have hci : combinationIndices.length = 4 := rfl
  rw [hci] at hF2
  rw [Score.mk.injEq]
  constructor <;> omega

/-! ## Positional arithmetic: digits of sums of powers are multiplicities

This is the key lemma making kernel-side counting cheap: a sum of powers
`q^f` with all per-position multiplicities below `q` is a base-`q`
numeral whose digits are exactly the multiplicities. -/

/-- Base-`q` digit of `n` at position `D`. -/
def digitAt (q n D : Nat) : Nat := n / q ^ D % q

lemma digitAt_add_pow (q : Nat) (hq : 2 ≤ q) (f D S : Nat)
    (hd : digitAt q S f < q - 1) :
    digitAt q (q ^ f + S) D = digitAt q S D + (if f = D then 1 else 0) := by
  have hqpos : 0 < q := by omega
  have hA : 0 < q ^ f := Nat.pos_pow_of_pos f hqpos
  have hB : q ^ (f + 1) = q ^ f * q := pow_succ q f
  -- decompose S around position f
  have hlo : S % q ^ f < q ^ f := Nat.mod_lt _ hA
  have hmid : S / q ^ f % q < q - 1 := hd
  have hS : S = S / q ^ f / q * (q ^ f * q) + S / q ^ f % q * q ^ f + S % q ^ f := by
    have h1 := Nat.div_add_mod (S / q ^ f) q
    have h2 := Nat.div_add_mod S (q ^ f)
    calc S = q ^ f * (S / q ^ f) + S % q ^ f := h2.symm
      _ = q ^ f * (q * (S / q ^ f / q) + S / q ^ f % q) + S % q ^ f := by rw [h1]
      _ = S / q ^ f / q * (q ^ f * q) + S / q ^ f % q * q ^ f + S % q ^ f := by ring
  rcases Nat.lt_trichotomy D f with hDf | heq | hDf
  · -- D < f : adding q^f does not change the digit at D
    have hdvd : q ^ f = q ^ (D + 1) * q ^ (f - D - 1) := by
      rw [← pow_add]
      congr 1
      omega
    unfold digitAt
    have hq1 : q ^ (D + 1) = q ^ D * q := pow_succ q D
    rw [hdvd, hq1]
    have hre : q ^ D * q * q ^ (f - D - 1) + S = S + q * q ^ (f - D - 1) * q ^ D := by
      ring
    rw [hre, if_neg (by omega),
      Nat.add_mul_div_right _ _ (Nat.pos_pow_of_pos D hqpos),
      Nat.add_mul_mod_self_left]
    omega
  · -- D = f : the digit increases by one (no carry, since it was < q-1)
    subst heq
    unfold digitAt
    rw [if_pos rfl]
    conv_lhs => rw [hS]
    have hstep : q ^ D + (S / q ^ D / q * (q ^ D * q) + S / q ^ D % q * q ^ D + S % q ^ D) =
        S % q ^ D + (S / q ^ D / q * q + S / q ^ D % q + 1) * q ^ D := by ring
    rw [hstep, Nat.add_mul_div_right _ _ hA, Nat.div_eq_of_lt hlo, Nat.zero_add]
    have h2 : (S / q ^ D % q + 1 + S / q ^ D / q * q) % q = S / q ^ D % q + 1 := by
      rw [Nat.add_mul_mod_self_right]
      exact Nat.mod_eq_of_lt (by omega)
    calc (S / q ^ D / q * q + S / q ^ D % q + 1) % q
        = (S / q ^ D % q + 1 + S / q ^ D / q * q) % q := by ring_nf
      _ = S / q ^ D % q + 1 := h2
  · -- D > f : the high digits are unchanged (no carry out of position f)
    unfold digitAt
    rw [if_neg (by omega)]
    have hdvd : q ^ D = q ^ (f + 1) * q ^ (D - f - 1) := by
      rw [← pow_add]
      congr 1
      omega
    have hhi : (q ^ f + S) / q ^ (f + 1) = S / q ^ (f + 1) := by
      conv_lhs => rw [hS]
      have hstep : q ^ f + (S / q ^ f / q * (q ^ f * q) + S / q ^ f % q * q ^ f + S % q ^ f) =
          ((S / q ^ f % q + 1) * q ^ f + S % q ^ f) + (q ^ f * q) * (S / q ^ f / q) := by
        ring
      have hstep2 : S = (S / q ^ f % q * q ^ f + S % q ^ f) + (q ^ f * q) * (S / q ^ f / q) := by
        conv_lhs => rw [hS]
        ring
      rw [hstep]
      conv_rhs => rw [hstep2]
      rw [hB]
      have hr1 : (S / q ^ f % q + 1) * q ^ f + S % q ^ f < q ^ f * q := by
        have : (S / q ^ f % q + 1) * q ^ f ≤ (q - 1) * q ^ f := by
          apply Nat.mul_le_mul_right
          omega
        have hq2 : (q - 1) * q ^ f + q ^ f = q ^ f * q := by
          have hsq : (q - 1) + 1 = q := by omega
          calc (q - 1) * q ^ f + q ^ f = ((q - 1) + 1) * q ^ f := by ring
            _ = q * q ^ f := by rw [hsq]
            _ = q ^ f * q := by ring
        omega
      have hr2 : S / q ^ f % q * q ^ f + S % q ^ f < q ^ f * q := by
        have : S / q ^ f % q * q ^ f ≤ (q - 1) * q ^ f := by
          apply Nat.mul_le_mul_right
          omega
        have hq2 : (q - 1) * q ^ f + q ^ f = q ^ f * q := by
          have hsq : (q - 1) + 1 = q := by omega
          calc (q - 1) * q ^ f + q ^ f = ((q - 1) + 1) * q ^ f := by ring
            _ = q * q ^ f := by rw [hsq]
            _ = q ^ f * q := by ring
        omega
      rw [Nat.add_mul_div_left _ _ (by positivity : 0 < q ^ f * q),
        Nat.add_mul_div_left _ _ (by positivity : 0 < q ^ f * q),
        Nat.div_eq_of_lt hr1, Nat.div_eq_of_lt hr2]
    rw [hdvd, ← Nat.div_div_eq_div_mul, ← Nat.div_div_eq_div_mul, hhi]
    omega

/-- The digits of a sum of powers `q^f` are the multiplicities of the
exponents, provided every multiplicity is below `q - 1`. -/
lemma sum_pow_digit (q : Nat) (hq : 2 ≤ q) (fs : List Nat)
    (hcnt : ∀ k : Nat, fs.countP (fun f => f == k) < q - 1) (D : Nat) :
    digitAt q ((fs.map (fun f => q ^ f)).sum) D = fs.countP (fun f => f == D) := by
  induction fs generalizing D with
  | nil =>
    simp [digitAt, Nat.zero_div, Nat.zero_mod]
  | cons f rest ih =>
    have hcnt' : ∀ k : Nat, rest.countP (fun f => f == k) < q - 1 := by
      intro k
      have := hcnt k
      rw [List.countP_cons] at this
      omega
    have hdio : digitAt q ((rest.map (fun f => q ^ f)).sum) f =
        rest.countP (fun g => g == f) := ih hcnt' f
    have hlt : digitAt q ((rest.map (fun f => q ^ f)).sum) f < q - 1 := by
      rw [hdio]
      have := hcnt f
      rw [List.countP_cons] at this
      simp at this
      omega
    rw [List.map_cons, List.sum_cons, digitAt_add_pow q hq f D _ hlt, ih hcnt' D,
      List.countP_cons]
    simp [beq_iff_eq]

/-! ## The packed-mask scorer

Each code is packed into a single natural number holding five fields:
a color-set mask `M` (base-16 digits indexed by color), a reversed mask
`RM`, a position-tagged mask `BM` (digits indexed by `6*i + color`), its
reversal `RBM`, and the base-8 digit encoding.  Scoring two packed codes
then needs two multiplications and a few divisions: the middle base-16
digit of `M(a) * RM(b)` counts the common colors, that of `BM(a) * RBM(b)`
counts the exact position matches. -/

/-- Score (encoded as `8*black + white = 7*black + common`) of two packed
codes. -/
def fastP (u v : Nat) : Nat :=
  7 * (u / 2 ^ 48 % 2 ^ 96 * (v / 2 ^ 144 % 2 ^ 96) / 2 ^ 92 % 16) +
    u % 2 ^ 24 * (v / 2 ^ 24 % 2 ^ 24) / 2 ^ 20 % 16

/-- Pack a code into its mask fields plus digit encoding. -/
def encP : Code → Nat
  | [c1, c2, c3, c4] =>
    (2 ^ (4 * colorIdx c1) + 2 ^ (4 * colorIdx c2) + 2 ^ (4 * colorIdx c3) +
        2 ^ (4 * colorIdx c4)) +
      (2 ^ (4 * (5 - colorIdx c1)) + 2 ^ (4 * (5 - colorIdx c2)) +
        2 ^ (4 * (5 - colorIdx c3)) + 2 ^ (4 * (5 - colorIdx c4))) * 2 ^ 24 +
      (2 ^ (4 * colorIdx c1) + 2 ^ (4 * (6 + colorIdx c2)) +
        2 ^ (4 * (12 + colorIdx c3)) + 2 ^ (4 * (18 + colorIdx c4))) * 2 ^ 48 +
      (2 ^ (4 * (23 - colorIdx c1)) + 2 ^ (4 * (17 - colorIdx c2)) +
        2 ^ (4 * (11 - colorIdx c3)) + 2 ^ (4 * (5 - colorIdx c4))) * 2 ^ 144 +
      encCode [c1, c2, c3, c4] * 2 ^ 240
  | _ => 0

lemma colorIdx_le_five : ∀ u ∈ colors, colorIdx u ≤ 5 := by decide

lemma encCode_lt (c1 c2 c3 c4 : Char) (h1 : c1 ∈ colors) (h2 : c2 ∈ colors)
    (h3 : c3 ∈ colors) (h4 : c4 ∈ colors) :
    encCode [c1, c2, c3, c4] < 2 ^ 12 := by
  have b1 := colorIdx_le_five c1 h1
  have b2 := colorIdx_le_five c2 h2
  have b3 := colorIdx_le_five c3 h3
  have b4 := colorIdx_le_five c4 h4
  have he : encCode [c1, c2, c3, c4] =
      colorIdx c1 + 8 * colorIdx c2 + 64 * colorIdx c3 + 512 * colorIdx c4 := rfl
  rw [he]
  omega

lemma pow_le_of_exp_le {e b : Nat} (h : e ≤ b) : (2 : Nat) ^ e ≤ 2 ^ b :=
  Nat.pow_le_pow_right (by omega) h

lemma encP_extract (c1 c2 c3 c4 : Char) (h1 : c1 ∈ colors) (h2 : c2 ∈ colors)
    (h3 : c3 ∈ colors) (h4 : c4 ∈ colors) :
    encP [c1, c2, c3, c4] % 2 ^ 24 =
      2 ^ (4 * colorIdx c1) + 2 ^ (4 * colorIdx c2) + 2 ^ (4 * colorIdx c3) +
        2 ^ (4 * colorIdx c4) ∧
    encP [c1, c2, c3, c4] / 2 ^ 24 % 2 ^ 24 =
      2 ^ (4 * (5 - colorIdx c1)) + 2 ^ (4 * (5 - colorIdx c2)) +
        2 ^ (4 * (5 - colorIdx c3)) + 2 ^ (4 * (5 - colorIdx c4)) ∧
    encP [c1, c2, c3, c4] / 2 ^ 48 % 2 ^ 96 =
      2 ^ (4 * colorIdx c1) + 2 ^ (4 * (6 + colorIdx c2)) +
        2 ^ (4 * (12 + colorIdx c3)) + 2 ^ (4 * (18 + colorIdx c4)) ∧
    encP [c1, c2, c3, c4] / 2 ^ 144 % 2 ^ 96 =
      2 ^ (4 * (23 - colorIdx c1)) + 2 ^ (4 * (17 - colorIdx c2)) +
        2 ^ (4 * (11 - colorIdx c3)) + 2 ^ (4 * (5 - colorIdx c4)) ∧
    encP [c1, c2, c3, c4] / 2 ^ 240 = encCode [c1, c2, c3, c4] := by
  have b1 := colorIdx_le_five c1 h1
  have b2 := colorIdx_le_five c2 h2
  have b3 := colorIdx_le_five c3 h3
  have b4 := colorIdx_le_five c4 h4
  have hM1 : 2 ^ (4 * colorIdx c1) ≤ 2 ^ 20 := pow_le_of_exp_le (by omega)
  have hM2 : 2 ^ (4 * colorIdx c2) ≤ 2 ^ 20 := pow_le_of_exp_le (by omega)
  have hM3 : 2 ^ (4 * colorIdx c3) ≤ 2 ^ 20 := pow_le_of_exp_le (by omega)
  have hM4 : 2 ^ (4 * colorIdx c4) ≤ 2 ^ 20 := pow_le_of_exp_le (by omega)
  have hR1 : 2 ^ (4 * (5 - colorIdx c1)) ≤ 2 ^ 20 := pow_le_of_exp_le (by omega)
  have hR2 : 2 ^ (4 * (5 - colorIdx c2)) ≤ 2 ^ 20 := pow_le_of_exp_le (by omega)
  have hR3 : 2 ^ (4 * (5 - colorIdx c3)) ≤ 2 ^ 20 := pow_le_of_exp_le (by omega)
  have hR4 : 2 ^ (4 * (5 - colorIdx c4)) ≤ 2 ^ 20 := pow_le_of_exp_le (by omega)
  have hB1 : 2 ^ (4 * colorIdx c1) ≤ 2 ^ 92 := pow_le_of_exp_le (by omega)
  have hB2 : 2 ^ (4 * (6 + colorIdx c2)) ≤ 2 ^ 92 := pow_le_of_exp_le (by omega)
  have hB3 : 2 ^ (4 * (12 + colorIdx c3)) ≤ 2 ^ 92 := pow_le_of_exp_le (by omega)
  have hB4 : 2 ^ (4 * (18 + colorIdx c4)) ≤ 2 ^ 92 := pow_le_of_exp_le (by omega)
  have hV1 : 2 ^ (4 * (23 - colorIdx c1)) ≤ 2 ^ 92 := pow_le_of_exp_le (by omega)
  have hV2 : 2 ^ (4 * (17 - colorIdx c2)) ≤ 2 ^ 92 := pow_le_of_exp_le (by omega)
  have hV3 : 2 ^ (4 * (11 - colorIdx c3)) ≤ 2 ^ 92 := pow_le_of_exp_le (by omega)
  have hV4 : 2 ^ (4 * (5 - colorIdx c4)) ≤ 2 ^ 92 := pow_le_of_exp_le (by omega)
  have hDG := encCode_lt c1 c2 c3 c4 h1 h2 h3 h4
  set M := 2 ^ (4 * colorIdx c1) + 2 ^ (4 * colorIdx c2) + 2 ^ (4 * colorIdx c3) +
    2 ^ (4 * colorIdx c4) with hMdef
  set RM := 2 ^ (4 * (5 - colorIdx c1)) + 2 ^ (4 * (5 - colorIdx c2)) +
    2 ^ (4 * (5 - colorIdx c3)) + 2 ^ (4 * (5 - colorIdx c4)) with hRMdef
  set BM := 2 ^ (4 * colorIdx c1) + 2 ^ (4 * (6 + colorIdx c2)) +
    2 ^ (4 * (12 + colorIdx c3)) + 2 ^ (4 * (18 + colorIdx c4)) with hBMdef
  set RBM := 2 ^ (4 * (23 - colorIdx c1)) + 2 ^ (4 * (17 - colorIdx c2)) +
    2 ^ (4 * (11 - colorIdx c3)) + 2 ^ (4 * (5 - colorIdx c4)) with hRBMdef
  set DG := encCode [c1, c2, c3, c4] with hDGdef
  have he : encP [c1, c2, c3, c4] =
      M + 2 ^ 24 * (RM + 2 ^ 24 * (BM + 2 ^ 96 * (RBM + 2 ^ 96 * DG))) := by
    have he0 : encP [c1, c2, c3, c4] =
        M + RM * 2 ^ 24 + BM * 2 ^ 48 + RBM * 2 ^ 144 + DG * 2 ^ 240 := rfl
    rw [he0]
    ring
  have hMlt : M < 2 ^ 24 := by rw [hMdef]; omega
  have hRMlt : RM < 2 ^ 24 := by rw [hRMdef]; omega
  have hBMlt : BM < 2 ^ 96 := by rw [hBMdef]; omega
  have hRBMlt : RBM < 2 ^ 96 := by rw [hRBMdef]; omega
  have ext1 : ∀ F K W : Nat, F < W →
      (F + W * K) % W = F ∧ (F + W * K) / W = K := by
    intro F K W hF
    have hW : 0 < W := by omega
    constructor
    · rw [Nat.add_mul_mod_self_left, Nat.mod_eq_of_lt hF]
    · rw [Nat.add_mul_div_left _ _ hW, Nat.div_eq_of_lt hF, Nat.zero_add]
  rw [he]
  obtain ⟨e1m, e1d⟩ := ext1 M (RM + 2 ^ 24 * (BM + 2 ^ 96 * (RBM + 2 ^ 96 * DG)))
    (2 ^ 24) hMlt
  obtain ⟨e2m, e2d⟩ := ext1 RM (BM + 2 ^ 96 * (RBM + 2 ^ 96 * DG)) (2 ^ 24) hRMlt
  obtain ⟨e3m, e3d⟩ := ext1 BM (RBM + 2 ^ 96 * DG) (2 ^ 96) hBMlt
  obtain ⟨e4m, e4d⟩ := ext1 RBM DG (2 ^ 96) hRBMlt
  refine ⟨e1m, ?_, ?_, ?_, ?_⟩
  · rw [e1d, e2m]
  · rw [show (2 : Nat) ^ 48 = 2 ^ 24 * 2 ^ 24 from by norm_num,
      ← Nat.div_div_eq_div_mul, e1d, e2d, e3m]
  · rw [show (2 : Nat) ^ 144 = 2 ^ 24 * 2 ^ 24 * 2 ^ 96 from by norm_num,
      ← Nat.div_div_eq_div_mul, ← Nat.div_div_eq_div_mul, e1d, e2d, e3d, e4m]
  · rw [show (2 : Nat) ^ 240 = 2 ^ 24 * 2 ^ 24 * 2 ^ 96 * 2 ^ 96 from by norm_num,
      ← Nat.div_div_eq_div_mul, ← Nat.div_div_eq_div_mul, ← Nat.div_div_eq_div_mul,
      e1d, e2d, e3d, e4d]

lemma countP_quad_le_one (w x y z k : Nat) (hwx : w ≠ x) (hwy : w ≠ y)
    (hwz : w ≠ z) (hxy : x ≠ y) (hxz : x ≠ z) (hyz : y ≠ z) :
    ([w, x, y, z] : List Nat).countP (fun f => f == k) ≤ 1 := by
  simp only [List.countP_cons, List.countP_nil, beq_iff_eq]
  by_cases hw : w = k <;> by_cases hx : x = k <;> by_cases hy : y = k <;>
    by_cases hz : z = k <;> simp_all

/-- Four position-match indicators sum to the matching-position count. -/
lemma sum_ite_eq_matching (a1 a2 a3 a4 b1 b2 b3 b4 : Char) :
    ((if a1 = b1 then 1 else 0) + (if a2 = b2 then 1 else 0) +
      (if a3 = b3 then 1 else 0) + (if a4 = b4 then 1 else 0) : Nat) =
      (matchingIdx [a1, a2, a3, a4] [b1, b2, b3, b4]).length := by
  have em0 : matchPred [a1, a2, a3, a4] [b1, b2, b3, b4] 0 = (a1 == b1) := rfl
  have em1 : matchPred [a1, a2, a3, a4] [b1, b2, b3, b4] 1 = (a2 == b2) := rfl
  have em2 : matchPred [a1, a2, a3, a4] [b1, b2, b3, b4] 2 = (a3 == b3) := rfl
  have em3 : matchPred [a1, a2, a3, a4] [b1, b2, b3, b4] 3 = (a4 == b4) := rfl
  rw [matchingIdx]
  show _ = (List.filter _ [0, 1, 2, 3]).length
  rw [← List.countP_eq_length_filter]
  simp only [List.countP_cons, List.countP_nil, em0, em1, em2, em3, beq_iff_eq]
  by_cases e1 : a1 = b1 <;> by_cases e2 : a2 = b2 <;> by_cases e3 : a3 = b3 <;>
    by_cases e4 : a4 = b4 <;> simp [e1, e2, e3, e4]

/-- Four membership indicators sum to the common-color position count. -/
lemma sum_ite_eq_aMemCount (a1 a2 a3 a4 b1 b2 b3 b4 : Char) :
    ((if a1 ∈ [b1, b2, b3, b4] then 1 else 0) + (if a2 ∈ [b1, b2, b3, b4] then 1 else 0) +
      (if a3 ∈ [b1, b2, b3, b4] then 1 else 0) +
      (if a4 ∈ [b1, b2, b3, b4] then 1 else 0) : Nat) =
      combinationIndices.countP (aMemPred [a1, a2, a3, a4] [b1, b2, b3, b4]) := by
  have ea0 : aMemPred [a1, a2, a3, a4] [b1, b2, b3, b4] 0 =
      decide (some a1 ∈ [some b1, some b2, some b3, some b4]) := rfl
  have ea1 : aMemPred [a1, a2, a3, a4] [b1, b2, b3, b4] 1 =
      decide (some a2 ∈ [some b1, some b2, some b3, some b4]) := rfl
  have ea2 : aMemPred [a1, a2, a3, a4] [b1, b2, b3, b4] 2 =
      decide (some a3 ∈ [some b1, some b2, some b3, some b4]) := rfl
  have ea3 : aMemPred [a1, a2, a3, a4] [b1, b2, b3, b4] 3 =
      decide (some a4 ∈ [some b1, some b2, some b3, some b4]) := rfl
  show _ = List.countP _ [0, 1, 2, 3]
  simp only [List.countP_cons, List.countP_nil, ea0, ea1, ea2, ea3,
    decide_eq_true_eq, List.mem_cons, List.not_mem_nil, or_false,
    Option.some.injEq]
  by_cases m1 : a1 = b1 ∨ a1 = b2 ∨ a1 = b3 ∨ a1 = b4 <;>
    by_cases m2 : a2 = b1 ∨ a2 = b2 ∨ a2 = b3 ∨ a2 = b4 <;>
    by_cases m3 : a3 = b1 ∨ a3 = b2 ∨ a3 = b3 ∨ a3 = b4 <;>
    by_cases m4 : a4 = b1 ∨ a4 = b2 ∨ a4 = b3 ∨ a4 = b4 <;>
    simp [m1, m2, m3, m4, List.mem_cons]

/-- One membership indicator equals the sum of its four equality
indicators, for a duplicate-free target. -/
lemma ite_mem_eq_sum (u b1 b2 b3 b4 : Char)
    (hnd : ([b1, b2, b3, b4] : List Char).Nodup) :
    ((if u = b1 then 1 else 0) + (if u = b2 then 1 else 0) +
      (if u = b3 then 1 else 0) + (if u = b4 then 1 else 0) : Nat) =
      if u ∈ [b1, b2, b3, b4] then 1 else 0 := by
  simp only [List.nodup_cons, List.mem_cons, List.not_mem_nil, or_false,
    List.nodup_nil, and_true] at hnd
  by_cases e1 : u = b1 <;> by_cases e2 : u = b2 <;> by_cases e3 : u = b3 <;>
    by_cases e4 : u = b4 <;> simp_all

lemma pow16_of_pow2 (z : Nat) : (2 : Nat) ^ (4 * z) = 16 ^ z := by
  rw [pow_mul]
  norm_num

/-- The middle digit of the product of the position-tagged masks counts
the exact position matches. -/
lemma packBlack_eq (a1 a2 a3 a4 b1 b2 b3 b4 : Char)
    (ha1 : a1 ∈ colors) (ha2 : a2 ∈ colors) (ha3 : a3 ∈ colors) (ha4 : a4 ∈ colors)
    (hb1 : b1 ∈ colors) (hb2 : b2 ∈ colors) (hb3 : b3 ∈ colors) (hb4 : b4 ∈ colors) :
    (2 ^ (4 * colorIdx a1) + 2 ^ (4 * (6 + colorIdx a2)) +
        2 ^ (4 * (12 + colorIdx a3)) + 2 ^ (4 * (18 + colorIdx a4))) *
      (2 ^ (4 * (23 - colorIdx b1)) + 2 ^ (4 * (17 - colorIdx b2)) +
        2 ^ (4 * (11 - colorIdx b3)) + 2 ^ (4 * (5 - colorIdx b4))) / 2 ^ 92 % 16 =
      (matchingIdx [a1, a2, a3, a4] [b1, b2, b3, b4]).length := by
  have da1 := colorIdx_le_five a1 ha1
  have da2 := colorIdx_le_five a2 ha2
  have da3 := colorIdx_le_five a3 ha3
  have da4 := colorIdx_le_five a4 ha4
  have db1 := colorIdx_le_five b1 hb1
  have db2 := colorIdx_le_five b2 hb2
  have db3 := colorIdx_le_five b3 hb3
  have db4 := colorIdx_le_five b4 hb4
  have hprod : (2 ^ (4 * colorIdx a1) + 2 ^ (4 * (6 + colorIdx a2)) +
        2 ^ (4 * (12 + colorIdx a3)) + 2 ^ (4 * (18 + colorIdx a4))) *
      (2 ^ (4 * (23 - colorIdx b1)) + 2 ^ (4 * (17 - colorIdx b2)) +
        2 ^ (4 * (11 - colorIdx b3)) + 2 ^ (4 * (5 - colorIdx b4))) =
      (([colorIdx a1 + (23 - colorIdx b1), 6 + colorIdx a2 + (23 - colorIdx b1),
        12 + colorIdx a3 + (23 - colorIdx b1), 18 + colorIdx a4 + (23 - colorIdx b1)] ++
        [colorIdx a1 + (17 - colorIdx b2), 6 + colorIdx a2 + (17 - colorIdx b2),
        12 + colorIdx a3 + (17 - colorIdx b2), 18 + colorIdx a4 + (17 - colorIdx b2)] ++
        [colorIdx a1 + (11 - colorIdx b3), 6 + colorIdx a2 + (11 - colorIdx b3),
        12 + colorIdx a3 + (11 - colorIdx b3), 18 + colorIdx a4 + (11 - colorIdx b3)] ++
        [colorIdx a1 + (5 - colorIdx b4), 6 + colorIdx a2 + (5 - colorIdx b4),
        12 + colorIdx a3 + (5 - colorIdx b4), 18 + colorIdx a4 + (5 - colorIdx b4)]).map
        (fun e => 16 ^ e)).sum := by
    rw [pow16_of_pow2 (colorIdx a1), pow16_of_pow2 (6 + colorIdx a2),
      pow16_of_pow2 (12 + colorIdx a3), pow16_of_pow2 (18 + colorIdx a4),
      pow16_of_pow2 (23 - colorIdx b1), pow16_of_pow2 (17 - colorIdx b2),
      pow16_of_pow2 (11 - colorIdx b3), pow16_of_pow2 (5 - colorIdx b4)]
    simp only [List.append_assoc, List.cons_append, List.nil_append, List.map_cons,
      List.map_nil, List.sum_cons, List.sum_nil, pow_add]
    ring
  rw [hprod, show (2 : Nat) ^ 92 = 16 ^ 23 from by norm_num]
  have hcnt : ∀ k : Nat,
      (([colorIdx a1 + (23 - colorIdx b1), 6 + colorIdx a2 + (23 - colorIdx b1),
        12 + colorIdx a3 + (23 - colorIdx b1), 18 + colorIdx a4 + (23 - colorIdx b1)] ++
        [colorIdx a1 + (17 - colorIdx b2), 6 + colorIdx a2 + (17 - colorIdx b2),
        12 + colorIdx a3 + (17 - colorIdx b2), 18 + colorIdx a4 + (17 - colorIdx b2)] ++
        [colorIdx a1 + (11 - colorIdx b3), 6 + colorIdx a2 + (11 - colorIdx b3),
        12 + colorIdx a3 + (11 - colorIdx b3), 18 + colorIdx a4 + (11 - colorIdx b3)] ++
        [colorIdx a1 + (5 - colorIdx b4), 6 + colorIdx a2 + (5 - colorIdx b4),
        12 + colorIdx a3 + (5 - colorIdx b4), 18 + colorIdx a4 + (5 - colorIdx b4)]).countP
        (fun f => f == k)) < 15 := by
    intro k
    rw [List.countP_append, List.countP_append, List.countP_append]
    have c1 := countP_quad_le_one (colorIdx a1 + (23 - colorIdx b1))
      (6 + colorIdx a2 + (23 - colorIdx b1)) (12 + colorIdx a3 + (23 - colorIdx b1))
      (18 + colorIdx a4 + (23 - colorIdx b1)) k
      (by omega) (by omega) (by omega) (by omega) (by omega) (by omega)
    have c2 := countP_quad_le_one (colorIdx a1 + (17 - colorIdx b2))
      (6 + colorIdx a2 + (17 - colorIdx b2)) (12 + colorIdx a3 + (17 - colorIdx b2))
      (18 + colorIdx a4 + (17 - colorIdx b2)) k
      (by omega) (by omega) (by omega) (by omega) (by omega) (by omega)
    have c3 := countP_quad_le_one (colorIdx a1 + (11 - colorIdx b3))
      (6 + colorIdx a2 + (11 - colorIdx b3)) (12 + colorIdx a3 + (11 - colorIdx b3))
      (18 + colorIdx a4 + (11 - colorIdx b3)) k
      (by omega) (by omega) (by omega) (by omega) (by omega) (by omega)
    have c4 := countP_quad_le_one (colorIdx a1 + (5 - colorIdx b4))
      (6 + colorIdx a2 + (5 - colorIdx b4)) (12 + colorIdx a3 + (5 - colorIdx b4))
      (18 + colorIdx a4 + (5 - colorIdx b4)) k
      (by omega) (by omega) (by omega) (by omega) (by omega) (by omega)
    omega
  have hdig := sum_pow_digit 16 (by norm_num) _ hcnt 23
  unfold digitAt at hdig
  rw [hdig]
  rw [← sum_ite_eq_matching a1 a2 a3 a4 b1 b2 b3 b4]
  rw [List.countP_append, List.countP_append, List.countP_append]
  simp only [List.countP_cons, List.countP_nil, beq_iff_eq]
  rw [if_neg (by omega : ¬(6 + colorIdx a2 + (23 - colorIdx b1) = 23)),
    if_neg (by omega : ¬(12 + colorIdx a3 + (23 - colorIdx b1) = 23)),
    if_neg (by omega : ¬(18 + colorIdx a4 + (23 - colorIdx b1) = 23)),
    if_neg (by omega : ¬(colorIdx a1 + (17 - colorIdx b2) = 23)),
    if_neg (by omega : ¬(12 + colorIdx a3 + (17 - colorIdx b2) = 23)),
    if_neg (by omega : ¬(18 + colorIdx a4 + (17 - colorIdx b2) = 23)),
    if_neg (by omega : ¬(colorIdx a1 + (11 - colorIdx b3) = 23)),
    if_neg (by omega : ¬(6 + colorIdx a2 + (11 - colorIdx b3) = 23)),
    if_neg (by omega : ¬(18 + colorIdx a4 + (11 - colorIdx b3) = 23)),
    if_neg (by omega : ¬(colorIdx a1 + (5 - colorIdx b4) = 23)),
    if_neg (by omega : ¬(6 + colorIdx a2 + (5 - colorIdx b4) = 23)),
    if_neg (by omega : ¬(12 + colorIdx a3 + (5 - colorIdx b4) = 23))]
  have hd1 : (colorIdx a1 + (23 - colorIdx b1) = 23) = (a1 = b1) := by
    apply propext
    constructor
    · intro h
      exact colorIdx_inj a1 ha1 b1 hb1 (by omega)
    · intro h
      rw [h]
      omega
  have hd2 : (6 + colorIdx a2 + (17 - colorIdx b2) = 23) = (a2 = b2) := by
    apply propext
    constructor
    · intro h
      exact colorIdx_inj a2 ha2 b2 hb2 (by omega)
    · intro h
      rw [h]
      omega
  have hd3 : (12 + colorIdx a3 + (11 - colorIdx b3) = 23) = (a3 = b3) := by
    apply propext
    constructor
    · intro h
      exact colorIdx_inj a3 ha3 b3 hb3 (by omega)
    · intro h
      rw [h]
      omega
  have hd4 : (18 + colorIdx a4 + (5 - colorIdx b4) = 23) = (a4 = b4) := by
    apply propext
    constructor
    · intro h
      exact colorIdx_inj a4 ha4 b4 hb4 (by omega)
    · intro h
      rw [h]
      omega
  simp only [hd1, hd2, hd3, hd4]
  omega

/-- The middle digit of the product of the color masks counts the
positions of the first code whose color occurs in the second. -/
lemma packCommon_eq (a1 a2 a3 a4 b1 b2 b3 b4 : Char)
    (ha1 : a1 ∈ colors) (ha2 : a2 ∈ colors) (ha3 : a3 ∈ colors) (ha4 : a4 ∈ colors)
    (hb1 : b1 ∈ colors) (hb2 : b2 ∈ colors) (hb3 : b3 ∈ colors) (hb4 : b4 ∈ colors)
    (hNa : ([a1, a2, a3, a4] : List Char).Nodup)
    (hNb : ([b1, b2, b3, b4] : List Char).Nodup) :
    (2 ^ (4 * colorIdx a1) + 2 ^ (4 * colorIdx a2) + 2 ^ (4 * colorIdx a3) +
        2 ^ (4 * colorIdx a4)) *
      (2 ^ (4 * (5 - colorIdx b1)) + 2 ^ (4 * (5 - colorIdx b2)) +
        2 ^ (4 * (5 - colorIdx b3)) + 2 ^ (4 * (5 - colorIdx b4))) / 2 ^ 20 % 16 =
      combinationIndices.countP (aMemPred [a1, a2, a3, a4] [b1, b2, b3, b4]) := by
  have da1 := colorIdx_le_five a1 ha1
  have da2 := colorIdx_le_five a2 ha2
  have da3 := colorIdx_le_five a3 ha3
  have da4 := colorIdx_le_five a4 ha4
  have db1 := colorIdx_le_five b1 hb1
  have db2 := colorIdx_le_five b2 hb2
  have db3 := colorIdx_le_five b3 hb3
  have db4 := colorIdx_le_five b4 hb4
  simp only [List.nodup_cons, List.mem_cons, List.not_mem_nil, or_false,
    List.nodup_nil, and_true, not_or] at hNa
  obtain ⟨⟨hn12, hn13, hn14⟩, ⟨hn23, hn24⟩, hn34, -⟩ := hNa
  have hda12 : colorIdx a1 ≠ colorIdx a2 := fun h =>
    hn12 (colorIdx_inj a1 ha1 a2 ha2 h)
  have hda13 : colorIdx a1 ≠ colorIdx a3 := fun h =>
    hn13 (colorIdx_inj a1 ha1 a3 ha3 h)
  have hda14 : colorIdx a1 ≠ colorIdx a4 := fun h =>
    hn14 (colorIdx_inj a1 ha1 a4 ha4 h)
  have hda23 : colorIdx a2 ≠ colorIdx a3 := fun h =>
    hn23 (colorIdx_inj a2 ha2 a3 ha3 h)
  have hda24 : colorIdx a2 ≠ colorIdx a4 := fun h =>
    hn24 (colorIdx_inj a2 ha2 a4 ha4 h)
  have hda34 : colorIdx a3 ≠ colorIdx a4 := fun h =>
    hn34 (colorIdx_inj a3 ha3 a4 ha4 h)
  have hprod : (2 ^ (4 * colorIdx a1) + 2 ^ (4 * colorIdx a2) + 2 ^ (4 * colorIdx a3) +
        2 ^ (4 * colorIdx a4)) *
      (2 ^ (4 * (5 - colorIdx b1)) + 2 ^ (4 * (5 - colorIdx b2)) +
        2 ^ (4 * (5 - colorIdx b3)) + 2 ^ (4 * (5 - colorIdx b4))) =
      (([colorIdx a1 + (5 - colorIdx b1), colorIdx a2 + (5 - colorIdx b1),
        colorIdx a3 + (5 - colorIdx b1), colorIdx a4 + (5 - colorIdx b1)] ++
        [colorIdx a1 + (5 - colorIdx b2), colorIdx a2 + (5 - colorIdx b2),
        colorIdx a3 + (5 - colorIdx b2), colorIdx a4 + (5 - colorIdx b2)] ++
        [colorIdx a1 + (5 - colorIdx b3), colorIdx a2 + (5 - colorIdx b3),
        colorIdx a3 + (5 - colorIdx b3), colorIdx a4 + (5 - colorIdx b3)] ++
        [colorIdx a1 + (5 - colorIdx b4), colorIdx a2 + (5 - colorIdx b4),
        colorIdx a3 + (5 - colorIdx b4), colorIdx a4 + (5 - colorIdx b4)]).map
        (fun e => 16 ^ e)).sum := by
    rw [pow16_of_pow2 (colorIdx a1), pow16_of_pow2 (colorIdx a2),
      pow16_of_pow2 (colorIdx a3), pow16_of_pow2 (colorIdx a4),
      pow16_of_pow2 (5 - colorIdx b1), pow16_of_pow2 (5 - colorIdx b2),
      pow16_of_pow2 (5 - colorIdx b3), pow16_of_pow2 (5 - colorIdx b4)]
    simp only [List.append_assoc, List.cons_append, List.nil_append, List.map_cons,
      List.map_nil, List.sum_cons, List.sum_nil, pow_add]
    ring
  rw [hprod, show (2 : Nat) ^ 20 = 16 ^ 5 from by norm_num]
  have hcnt : ∀ k : Nat,
      (([colorIdx a1 + (5 - colorIdx b1), colorIdx a2 + (5 - colorIdx b1),
        colorIdx a3 + (5 - colorIdx b1), colorIdx a4 + (5 - colorIdx b1)] ++
        [colorIdx a1 + (5 - colorIdx b2), colorIdx a2 + (5 - colorIdx b2),
        colorIdx a3 + (5 - colorIdx b2), colorIdx a4 + (5 - colorIdx b2)] ++
        [colorIdx a1 + (5 - colorIdx b3), colorIdx a2 + (5 - colorIdx b3),
        colorIdx a3 + (5 - colorIdx b3), colorIdx a4 + (5 - colorIdx b3)] ++
        [colorIdx a1 + (5 - colorIdx b4), colorIdx a2 + (5 - colorIdx b4),
        colorIdx a3 + (5 - colorIdx b4), colorIdx a4 + (5 - colorIdx b4)]).countP
        (fun f => f == k)) < 15 := by
    intro k
    rw [List.countP_append, List.countP_append, List.countP_append]
    have c1 := countP_quad_le_one (colorIdx a1 + (5 - colorIdx b1))
      (colorIdx a2 + (5 - colorIdx b1)) (colorIdx a3 + (5 - colorIdx b1))
      (colorIdx a4 + (5 - colorIdx b1)) k
      (by omega) (by omega) (by omega) (by omega) (by omega) (by omega)
    have c2 := countP_quad_le_one (colorIdx a1 + (5 - colorIdx b2))
      (colorIdx a2 + (5 - colorIdx b2)) (colorIdx a3 + (5 - colorIdx b2))
      (colorIdx a4 + (5 - colorIdx b2)) k
      (by omega) (by omega) (by omega) (by omega) (by omega) (by omega)
    have c3 := countP_quad_le_one (colorIdx a1 + (5 - colorIdx b3))
      (colorIdx a2 + (5 - colorIdx b3)) (colorIdx a3 + (5 - colorIdx b3))
      (colorIdx a4 + (5 - colorIdx b3)) k
      (by omega) (by omega) (by omega) (by omega) (by omega) (by omega)
    have c4 := countP_quad_le_one (colorIdx a1 + (5 - colorIdx b4))
      (colorIdx a2 + (5 - colorIdx b4)) (colorIdx a3 + (5 - colorIdx b4))
      (colorIdx a4 + (5 - colorIdx b4)) k
      (by omega) (by omega) (by omega) (by omega) (by omega) (by omega)
    omega
  have hdig := sum_pow_digit 16 (by norm_num) _ hcnt 5
  unfold digitAt at hdig
  rw [hdig]
  rw [← sum_ite_eq_aMemCount a1 a2 a3 a4 b1 b2 b3 b4,
    ← ite_mem_eq_sum a1 b1 b2 b3 b4 hNb, ← ite_mem_eq_sum a2 b1 b2 b3 b4 hNb,
    ← ite_mem_eq_sum a3 b1 b2 b3 b4 hNb, ← ite_mem_eq_sum a4 b1 b2 b3 b4 hNb]
  rw [List.countP_append, List.countP_append, List.countP_append]
  simp only [List.countP_cons, List.countP_nil, beq_iff_eq]
  have hiff : ∀ u v : Char, u ∈ colors → v ∈ colors →
      (colorIdx u + (5 - colorIdx v) = 5) = (u = v) := by
    intro u v hu hv
    have hu5 := colorIdx_le_five u hu
    have hv5 := colorIdx_le_five v hv
    apply propext
    constructor
    · intro h
      exact colorIdx_inj u hu v hv (by omega)
    · intro h
      rw [h]
      omega
  simp only [hiff a1 b1 ha1 hb1, hiff a2 b1 ha2 hb1, hiff a3 b1 ha3 hb1,
    hiff a4 b1 ha4 hb1, hiff a1 b2 ha1 hb2, hiff a2 b2 ha2 hb2, hiff a3 b2 ha3 hb2,
    hiff a4 b2 ha4 hb2, hiff a1 b3 ha1 hb3, hiff a2 b3 ha2 hb3, hiff a3 b3 ha3 hb3,
    hiff a4 b3 ha4 hb3, hiff a1 b4 ha1 hb4, hiff a2 b4 ha2 hb4, hiff a3 b4 ha3 hb4,
    hiff a4 b4 ha4 hb4]
  omega

/-- `fastBlack` on the digit encodings counts the matching positions. -/
lemma fastBlack_eq (a1 a2 a3 a4 b1 b2 b3 b4 : Char)
    (ha1 : a1 ∈ colors) (ha2 : a2 ∈ colors) (ha3 : a3 ∈ colors) (ha4 : a4 ∈ colors)
    (hb1 : b1 ∈ colors) (hb2 : b2 ∈ colors) (hb3 : b3 ∈ colors) (hb4 : b4 ∈ colors) :
    fastBlack (encCode [a1, a2, a3, a4]) (encCode [b1, b2, b3, b4]) =
      (matchingIdx [a1, a2, a3, a4] [b1, b2, b3, b4]).length := by
  obtain ⟨da1, da2, da3, da4⟩ := enc_digits a1 a2 a3 a4 ha1 ha2 ha3 ha4
  obtain ⟨db1, db2, db3, db4⟩ := enc_digits b1 b2 b3 b4 hb1 hb2 hb3 hb4
  have em0 : matchPred [a1, a2, a3, a4] [b1, b2, b3, b4] 0 = (a1 == b1) := rfl
  have em1 : matchPred [a1, a2, a3, a4] [b1, b2, b3, b4] 1 = (a2 == b2) := rfl
  have em2 : matchPred [a1, a2, a3, a4] [b1, b2, b3, b4] 2 = (a3 == b3) := rfl
  have em3 : matchPred [a1, a2, a3, a4] [b1, b2, b3, b4] 3 = (a4 == b4) := rfl
  rw [fastBlack, da1, da2, da3, da4, db1, db2, db3, db4,
    eqb_colorIdx a1 b1 ha1 hb1, eqb_colorIdx a2 b2 ha2 hb2,
    eqb_colorIdx a3 b3 ha3 hb3, eqb_colorIdx a4 b4 ha4 hb4, matchingIdx]
  show _ = (List.filter _ [0, 1, 2, 3]).length
  rw [← List.countP_eq_length_filter]
  simp only [List.countP_cons, List.countP_nil, em0, em1, em2, em3, beq_iff_eq]
  by_cases e1 : a1 = b1 <;> by_cases e2 : a2 = b2 <;> by_cases e3 : a3 = b3 <;>
    by_cases e4 : a4 = b4 <;> simp [e1, e2, e3, e4]

/-- `fastCommon` on the digit encodings counts the common-color
positions. -/
lemma fastCommon_eq (a1 a2 a3 a4 b1 b2 b3 b4 : Char)
    (ha1 : a1 ∈ colors) (ha2 : a2 ∈ colors) (ha3 : a3 ∈ colors) (ha4 : a4 ∈ colors)
    (hb1 : b1 ∈ colors) (hb2 : b2 ∈ colors) (hb3 : b3 ∈ colors) (hb4 : b4 ∈ colors)
    (hbN : ([b1, b2, b3, b4] : List Char).Nodup) :
    fastCommon (encCode [a1, a2, a3, a4]) (encCode [b1, b2, b3, b4]) =
      combinationIndices.countP (aMemPred [a1, a2, a3, a4] [b1, b2, b3, b4]) := by
  obtain ⟨da1, da2, da3, da4⟩ := enc_digits a1 a2 a3 a4 ha1 ha2 ha3 ha4
  have ea0 : aMemPred [a1, a2, a3, a4] [b1, b2, b3, b4] 0 =
      decide (some a1 ∈ [some b1, some b2, some b3, some b4]) := rfl
  have ea1 : aMemPred [a1, a2, a3, a4] [b1, b2, b3, b4] 1 =
      decide (some a2 ∈ [some b1, some b2, some b3, some b4]) := rfl
  have ea2 : aMemPred [a1, a2, a3, a4] [b1, b2, b3, b4] 2 =
      decide (some a3 ∈ [some b1, some b2, some b3, some b4]) := rfl
  have ea3 : aMemPred [a1, a2, a3, a4] [b1, b2, b3, b4] 3 =
      decide (some a4 ∈ [some b1, some b2, some b3, some b4]) := rfl
  rw [fastCommon, da1, da2, da3, da4,
    memb_colorIdx a1 b1 b2 b3 b4 ha1 hb1 hb2 hb3 hb4 hbN,
    memb_colorIdx a2 b1 b2 b3 b4 ha2 hb1 hb2 hb3 hb4 hbN,
    memb_colorIdx a3 b1 b2 b3 b4 ha3 hb1 hb2 hb3 hb4 hbN,
    memb_colorIdx a4 b1 b2 b3 b4 ha4 hb1 hb2 hb3 hb4 hbN]
  show _ = List.countP _ [0, 1, 2, 3]
  simp only [List.countP_cons, List.countP_nil, ea0, ea1, ea2, ea3,
    decide_eq_true_eq, List.mem_cons, List.not_mem_nil, or_false,
    Option.some.injEq]
  by_cases m1 : a1 = b1 ∨ a1 = b2 ∨ a1 = b3 ∨ a1 = b4 <;>
    by_cases m2 : a2 = b1 ∨ a2 = b2 ∨ a2 = b3 ∨ a2 = b4 <;>
    by_cases m3 : a3 = b1 ∨ a3 = b2 ∨ a3 = b3 ∨ a3 = b4 <;>
    by_cases m4 : a4 = b1 ∨ a4 = b2 ∨ a4 = b3 ∨ a4 = b4 <;>
    simp [m1, m2, m3, m4]

/-- The packed mask scorer agrees with `calculateScore` on well-formed
codes. -/
theorem calc_eq_fastP (a b : Code) (ha : WellFormed a) (hb : WellFormed b) :
    calculateScore a b = decodeScore (fastP (encP a) (encP b)) := by
  have hmain := calc_eq_fast a b ha hb
  obtain ⟨haL, haN, haC⟩ := ha
  obtain ⟨hbL, hbN, hbC⟩ := hb
  obtain ⟨a1, a2, a3, a4, rfl⟩ := length_eq_four a haL
  obtain ⟨b1, b2, b3, b4, rfl⟩ := length_eq_four b hbL
  have ha1 : a1 ∈ colors := haC a1 (by simp)
  have ha2 : a2 ∈ colors := haC a2 (by simp)
  have ha3 : a3 ∈ colors := haC a3 (by simp)
  have ha4 : a4 ∈ colors := haC a4 (by simp)
  have hb1 : b1 ∈ colors := hbC b1 (by simp)
  have hb2 : b2 ∈ colors := hbC b2 (by simp)
  have hb3 : b3 ∈ colors := hbC b3 (by simp)
  have hb4 : b4 ∈ colors := hbC b4 (by simp)
  obtain ⟨eMa, eRMa, eBMa, eRBMa, -⟩ := encP_extract a1 a2 a3 a4 ha1 ha2 ha3 ha4
  obtain ⟨eMb, eRMb, eBMb, eRBMb, -⟩ := encP_extract b1 b2 b3 b4 hb1 hb2 hb3 hb4
  have harg : fastP (encP [a1, a2, a3, a4]) (encP [b1, b2, b3, b4]) =
      fastIdx (encCode [a1, a2, a3, a4]) (encCode [b1, b2, b3, b4]) := by
    rw [fastP, eBMa, eRBMb, eMa, eRMb,
      packBlack_eq a1 a2 a3 a4 b1 b2 b3 b4 ha1 ha2 ha3 ha4 hb1 hb2 hb3 hb4,
      packCommon_eq a1 a2 a3 a4 b1 b2 b3 b4 ha1 ha2 ha3 ha4 hb1 hb2 hb3 hb4 haN hbN,
      fastIdx,
      fastBlack_eq a1 a2 a3 a4 b1 b2 b3 b4 ha1 ha2 ha3 ha4 hb1 hb2 hb3 hb4,
      fastCommon_eq a1 a2 a3 a4 b1 b2 b3 b4 ha1 ha2 ha3 ha4 hb1 hb2 hb3 hb4 hbN]
    have hsplit := countP_filter_split (aMemPred [a1, a2, a3, a4] [b1, b2, b3, b4])
      (matchPred [a1, a2, a3, a4] [b1, b2, b3, b4]) combinationIndices
    have h1 := matchingIdx_countP_aMem [a1, a2, a3, a4] [b1, b2, b3, b4] hbL
    unfold matchingIdx at h1 ⊢
    omega
  rw [harg]
  exact hmain

/-! ## Recursor-level list operations

The equation-compiler (`brecOn`) unfoldings of `List.map`, `List.filter`,
`List.length` and `List.all` are expensive for the kernel to reduce on
long literal lists; these `List.rec` versions reduce in linear time and
are bridged to the standard functions. -/

def rmap {α β : Type} (f : α → β) (l : List α) : List β :=
  l.rec [] (fun a _ ih => f a :: ih)

def rfilter {α : Type} (p : α → Bool) (l : List α) : List α :=
  l.rec [] (fun a _ ih => if p a then a :: ih else ih)

def rlength {α : Type} (l : List α) : Nat :=
  l.rec 0 (fun _ _ ih => ih + 1)

def rall {α : Type} (p : α → Bool) (l : List α) : Bool :=
  l.rec true (fun a _ ih => p a && ih)

lemma rmap_eq {α β : Type} (f : α → β) (l : List α) : rmap f l = l.map f := by
  induction l with
  | nil => rfl
  | cons a t ih =>
    show f a :: rmap f t = _
    rw [ih, List.map_cons]

lemma rfilter_eq {α : Type} (p : α → Bool) (l : List α) :
    rfilter p l = l.filter p := by
  induction l with
  | nil => rfl
  | cons a t ih =>
    show (if p a then a :: rfilter p t else rfilter p t) = _
    rw [ih, List.filter_cons]

lemma rlength_eq {α : Type} (l : List α) : rlength l = l.length := by
  induction l with
  | nil => rfl
  | cons a t ih =>
    show rlength t + 1 = _
    rw [ih, List.length_cons]

lemma rall_eq {α : Type} (p : α → Bool) (l : List α) : rall p l = l.all p := by
  induction l with
  | nil => rfl
  | cons a t ih =>
    show (p a && rall p t) = _
    rw [ih, List.all_cons]

lemma forall_of_rall {α : Type} (p : α → Bool) (l : List α)
    (h : rall p l = true) : ∀ x ∈ l, p x = true := by
  rw [rall_eq] at h
  exact fun x hx => List.all_eq_true.mp h x hx

/-- Force a natural number to a literal before substituting it, so that
kernel reduction computes it once rather than once per use site. -/
def strictNat {α : Type} (n : Nat) (f : Nat → α) : α :=
  match n with
  | 0 => f 0
  | m + 1 => f (m + 1)

lemma strictNat_eq {α : Type} (n : Nat) (f : Nat → α) : strictNat n f = f n := by
  cases n <;> rfl

/-! ## Worst-case bucket counts through base-512 tallies

For a fixed candidate `p`, one pass over `remaining` accumulates
`Σ 512 ^ fastP (encP e) (encP p)`; by `sum_pow_digit` the base-512 digits
of the tally are exactly the score-bucket sizes (every bucket is at most
`|remaining| ≤ 360 < 511`), so the worst-case count of `findNextGuess` is
the maximum digit at the 15 encoded score positions. -/

/-- Accumulating pass computing `acc + Σ 512 ^ fastP (encP e) vp`. -/
def tallyGo (vp : Nat) (l : List Code) : Nat → Nat :=
  l.rec (fun acc => acc) (fun e _ ih acc => ih (acc + 512 ^ fastP (encP e) vp))

lemma tallyGo_eq (vp : Nat) (l : List Code) (acc : Nat) :
    tallyGo vp l acc = acc + ((l.map (fun e => 512 ^ fastP (encP e) vp)).sum) := by
  induction l generalizing acc with
  | nil => show acc = acc + ([] : List Nat).sum; simp
  | cons e t ih =>
    show tallyGo vp t (acc + 512 ^ fastP (encP e) vp) = _
    rw [ih, List.map_cons, List.sum_cons]
    omega

/-- Maximum tally digit over the encoded positions of the 15 scores. -/
def wfastCore (T : Nat) : Nat :=
  allScores.foldl (fun mx sc => Nat.max (digitAt 512 T (encScore sc)) mx) 0

/-- The worst-case score-bucket size of `p` against `E`, computed
arithmetically. -/
def wfast (E : List Code) (p : Code) : Nat :=
  strictNat (encP p) (fun vp => strictNat (tallyGo vp E 0) wfastCore)

lemma wfast_eq (E : List Code) (p : Code) :
    wfast E p =
      wfastCore ((E.map (fun e => 512 ^ fastP (encP e) (encP p))).sum) := by
  rw [wfast, strictNat_eq, strictNat_eq, tallyGo_eq, Nat.zero_add]

lemma foldl_congr_fn {α β : Type} (l : List α) (f g : β → α → β) (b : β)
    (h : ∀ x ∈ l, ∀ acc, f acc x = g acc x) : l.foldl f b = l.foldl g b := by
  induction l generalizing b with
  | nil => rfl
  | cons a t ih =>
    rw [List.foldl_cons, List.foldl_cons, h a (List.mem_cons_self a t)]
    exact ih _ (fun x hx acc => h x (List.mem_cons_of_mem a hx) acc)

lemma decodeScore_eq_iff (n : Nat) (w b : Nat) (hw : w < 8) :
    decodeScore n = ⟨(w : Int), (b : Int)⟩ ↔ n = 8 * b + w := by
  rw [decodeScore, Score.mk.injEq, Int.natCast_inj, Int.natCast_inj]
  omega

lemma encScore_mk (w b : Nat) : encScore ⟨(w : Int), (b : Int)⟩ = 8 * b + w := by
  rw [encScore]
  simp

lemma allScores_bounds : ∀ sc ∈ allScores,
    0 ≤ sc.white ∧ sc.white < 8 ∧ 0 ≤ sc.black := by decide

/-- The `findNextGuess` worst count equals the arithmetic `wfast`. -/
lemma maxCount_scoreRow_eq_wfast (E : List Code) (p : Code)
    (hE : ∀ c ∈ E, WellFormed c) (hp : WellFormed p) (hlen : E.length ≤ 510) :
    maxCount (scoreRow E p) = wfast E p := by
  rw [wfast_eq, maxCount, wfastCore]
  apply foldl_congr_fn
  intro sc hsc acc
  obtain ⟨hw0, hw8, hb0⟩ := allScores_bounds sc hsc
  obtain ⟨wI, bI⟩ := sc
  simp only at hw0 hw8 hb0
  obtain ⟨w, rfl⟩ := Int.eq_ofNat_of_zero_le hw0
  obtain ⟨b, rfl⟩ := Int.eq_ofNat_of_zero_le hb0
  have hw : w < 8 := by exact_mod_cast hw8
  congr 1
  have hcount : (scoreRow E p).count ⟨(w : Int), (b : Int)⟩ =
      E.countP (fun e => fastP (encP e) (encP p) == 8 * b + w) := by
    rw [scoreRow, List.count, List.countP_map]
    apply List.countP_congr
    intro e he
    simp only [Function.comp_apply, beq_iff_eq]
    rw [calc_eq_fastP e p (hE e he) hp, decodeScore_eq_iff _ w b hw]
  have hdig : digitAt 512
      ((E.map (fun e => 512 ^ fastP (encP e) (encP p))).sum) (8 * b + w) =
      E.countP (fun e => fastP (encP e) (encP p) == 8 * b + w) := by
    have hmm : E.map (fun e => 512 ^ fastP (encP e) (encP p)) =
        (E.map (fun e => fastP (encP e) (encP p))).map (fun f => 512 ^ f) := by
      rw [List.map_map]
      rfl
    rw [hmm, sum_pow_digit 512 (by norm_num)
      (E.map (fun e => fastP (encP e) (encP p))) ?_ (8 * b + w), List.countP_map]
    · rfl
    · intro k
      calc (E.map (fun e => fastP (encP e) (encP p))).countP (fun f => f == k) ≤
            (E.map (fun e => fastP (encP e) (encP p))).length :=
          List.countP_le_length _
        _ = E.length := List.length_map _ _
        _ < 511 := by omega
  rw [hcount, encScore_mk, hdig]

/-- `selectPre` through the recursor, forcing each worst count. -/
def rselect (l : List (Code × Nat)) : Int × Code → Int × Code :=
  l.rec (fun acc => acc)
    (fun pw _ ih acc =>
      strictNat pw.2 (fun w =>
        if (w : Int) < acc.1 then ih ((w : Int), pw.1) else ih acc))

lemma rselect_eq (l : List (Code × Nat)) (acc : Int × Code) :
    rselect l acc = selectPre l acc := by
  induction l generalizing acc with
  | nil => rfl
  | cons pw t ih =>
    obtain ⟨p, w⟩ := pw
    have hstep : rselect ((p, w) :: t) acc =
        strictNat w (fun wv =>
          if (wv : Int) < acc.1 then rselect t ((wv : Int), p)
          else rselect t acc) := rfl
    rw [hstep, strictNat_eq]
    have hsp : selectPre ((p, w) :: t) acc =
        if (w : Int) < acc.1 then selectPre t ((w : Int), p)
        else selectPre t acc := rfl
    rw [hsp]
    by_cases hw : (w : Int) < acc.1
    · rw [if_pos hw, if_pos hw, ih]
    · rw [if_neg hw, if_neg hw, ih]

lemma foldl_max_le (l : List Score) (cnt : Score → Nat) (B : Nat)
    (hf : ∀ sc, cnt sc ≤ B) :
    ∀ a, a ≤ B → l.foldl (fun mx sc => Nat.max (cnt sc) mx) a ≤ B := by
  induction l with
  | nil => intro a ha; exact ha
  | cons sc t ih =>
    intro a ha
    rw [List.foldl_cons]
    exact ih _ (Nat.max_le.mpr ⟨hf sc, ha⟩)

lemma maxCount_le_length (l : List Score) : maxCount l ≤ l.length := by
  unfold maxCount
  exact foldl_max_le allScores (fun sc => l.count sc) l.length
    (fun sc => List.count_le_length sc l) 0 (Nat.zero_le _)

/-- Any count up to 510 is below `Number.MAX_VALUE`. -/
lemma natCast_lt_numberMaxValue (n : Nat) (h : n ≤ 510) :
    (n : Int) < numberMaxValue := by
  have h2 : (2 : Int) ^ 1 ≤ 2 ^ 53 := pow_le_pow_right₀ (by norm_num) (by norm_num)
  have h3 : (2 : Int) ^ 1 = 2 := pow_one 2
  have h1 : (1 : Int) ≤ 2 ^ 53 - 1 := by omega
  have h5 : (2 : Int) ^ 10 ≤ 2 ^ 971 := pow_le_pow_right₀ (by norm_num) (by norm_num)
  have h6 : (2 : Int) ^ 10 = 1024 := by norm_num
  have h4 : (1024 : Int) ≤ 2 ^ 971 := by omega
  have h7 : (1 : Int) * 1024 ≤ (2 ^ 53 - 1) * 2 ^ 971 :=
    mul_le_mul h1 h4 (by norm_num) (by omega)
  have h8 : (n : Int) ≤ 510 := by exact_mod_cast h
  unfold numberMaxValue
  omega

/-- `Number.MAX_VALUE` reduces through its first comparison like any
other over-large initial minimum: replacing it with 511 gives the same
selection when every worst count is at most 510. -/
lemma selectPre_init_511 (l : List (Code × Nat)) (hne : l ≠ [])
    (hb : ∀ pw ∈ l, pw.2 ≤ 510) :
    selectPre l (numberMaxValue, []) = selectPre l ((511 : Int), []) := by
  cases l with
  | nil => exact absurd rfl hne
  | cons pw rest =>
    obtain ⟨p, w⟩ := pw
    have hw : w ≤ 510 := hb (p, w) (List.mem_cons_self _ _)
    have hstep1 : selectPre ((p, w) :: rest) (numberMaxValue, []) =
        if (w : Int) < numberMaxValue then selectPre rest ((w : Int), p)
        else selectPre rest (numberMaxValue, []) := rfl
    have hstep2 : selectPre ((p, w) :: rest) ((511 : Int), []) =
        if (w : Int) < (511 : Int) then selectPre rest ((w : Int), p)
        else selectPre rest ((511 : Int), []) := rfl
    rw [hstep1, hstep2, if_pos (natCast_lt_numberMaxValue w hw),
      if_pos (by exact_mod_cast Nat.lt_succ_of_le hw)]

/-- The driver for each interior decision-tree node: `findNextGuess`
reduced to a pure kernel computation on packed encodings. -/
lemma findNextGuess_node (E U : List Code) (g : Code)
    (hwf : rall (fun c => decide (WellFormed c)) E = true)
    (hused : rall (fun c => !(U.contains c)) E = true)
    (hlen2 : 2 ≤ rlength E) (hlen510 : rlength E ≤ 510)
    (hrun : (rselect (rmap (fun p => (p, wfast E p)) E) ((511 : Int), [])).2 = g) :
    findNextGuess E U = g := by
  have hwf' : ∀ c ∈ E, WellFormed c := fun c hc =>
    of_decide_eq_true (forall_of_rall _ E hwf c hc)
  have hlen : E.length = rlength E := (rlength_eq E).symm
  have h1 : (E.length == 1) = false := by
    rw [hlen]
    simp only [beq_eq_false_iff_ne]
    omega
  have hU : ∀ p ∈ E, U.contains p = false := by
    intro p hp
    have hnp := forall_of_rall _ E hused p hp
    rw [Bool.not_eq_true'] at hnp
    exact hnp
  rw [findNextGuess_eq_selectPre E U h1 hU]
  rw [show E.map (fun p => (p, maxCount (scoreRow E p))) =
      E.map (fun p => (p, wfast E p)) from
    List.map_congr_left (fun p hp => by
      rw [maxCount_scoreRow_eq_wfast E p hwf' (hwf' p hp) (by omega)])]
  rw [selectPre_init_511 _ ?_ ?_]
  · rw [← rmap_eq, ← rselect_eq]
    exact hrun
  · apply List.ne_nil_of_length_pos
    rw [List.length_map, hlen]
    omega
  · intro pw hpw
    obtain ⟨p, hp, rfl⟩ := List.mem_map.mp hpw
    show wfast E p ≤ 510
    rw [← maxCount_scoreRow_eq_wfast E p hwf' (hwf' p hp) (by omega)]
    calc maxCount (scoreRow E p) ≤ (scoreRow E p).length := maxCount_le_length _
      _ = E.length := List.length_map E _
      _ ≤ 510 := by omega

/-- The driver for each decision-tree edge: `parePossibilities` reduced
to a pure kernel computation on packed encodings. -/
lemma pare_node (E : List Code) (g : Code) (w b : Nat) (E' : List Code)
    (hwfE : rall (fun c => decide (WellFormed c)) E = true)
    (hwfg : WellFormed g) (hw : w < 8)
    (hrun : rfilter (fun p => fastP (encP p) (encP g) == 8 * b + w) E = E') :
    parePossibilities E g ⟨(w : Int), (b : Int)⟩ = E' := by
  rw [← hrun, rfilter_eq, parePossibilities]
  apply List.filter_congr
  intro p hp
  have hwfp : WellFormed p :=
    of_decide_eq_true (forall_of_rall _ E hwfE p hp)
  rw [isValidScore, scoreEquals_eq_decide, calc_eq_fastP p g hwfp hwfg]
  have hiff := decodeScore_eq_iff (fastP (encP p) (encP g)) w b hw
  by_cases hcase : fastP (encP p) (encP g) = 8 * b + w
  · have h2 : decodeScore (8 * b + w) = ⟨(w : Int), (b : Int)⟩ :=
      (decodeScore_eq_iff _ w b hw).mpr rfl
    simp [hcase, h2]
  · have h1 : decodeScore (fastP (encP p) (encP g)) ≠ ⟨(w : Int), (b : Int)⟩ :=
      fun hc => hcase (hiff.mp hc)
    simp [h1, hcase]

/-- One interior iteration of the solve loop for an honest collaborator:
score the guess, pare, select the next guess, recurse. -/
lemma loopRun_step (s : Code) (F fuel : Nat) (g : Code) (poss used : List Code)
    (w b : Nat) (E' : List Code) (g' : Code) (U' : List Code)
    (hF : F = fuel + 1)
    (hsc : honest s g = ⟨(w : Int), (b : Int)⟩) (hb4 : b ≠ 4)
    (hpare : parePossibilities poss g ⟨(w : Int), (b : Int)⟩ = E')
    (hUapp : used ++ [g] = U')
    (hnext : findNextGuess E' U' = g')
    (hlen : 2 ≤ rlength poss)
    (hmem : used.contains g = false)
    (hne : g ≠ []) :
    loopRun (honest s) F (some g) poss used =
      ((loopRun (honest s) fuel (some g') E' U').1,
        g :: (loopRun (honest s) fuel (some g') E' U').2) := by
  have hb : ((honest s g).black == (combinationLength : Int)) = false := by
    rw [hsc]
    show ((b : Int) == ((combinationLength : Nat) : Int)) = false
    rw [beq_eq_false_iff_ne]
    intro hc
    apply hb4
    have h4 : ((combinationLength : Nat) : Int) = (4 : Int) := rfl
    rw [h4] at hc
    exact_mod_cast hc
  have hlen' : ¬ (poss.length ≤ 1) := by
    rw [← rlength_eq]
    omega
  rw [hF, loopRun_go (honest s) fuel g poss used hb hlen' hmem hne, hsc, hpare,
    hUapp, hnext]

/-- The last iteration of the solve loop for an honest collaborator: the
guess is the secret, so the score has four blacks and `solved` fires. -/
lemma loopRun_last (s : Code) (F fuel : Nat) (poss used : List Code)
    (hF : F = fuel + 1)
    (hs4 : s.length = 4)
    (hmem : used.contains s = false) :
    loopRun (honest s) F (some s) poss used =
      (RunResult.solved s (used.length + 1), [s]) := by
  have hne : s ≠ [] := by
    intro h
    rw [h] at hs4
    simp at hs4
  rw [hF]
  apply loopRun_solved _ _ _ _ _ _ hmem hne
  show ((calculateScore s s).black == ((combinationLength : Nat) : Int)) = true
  rw [calculateScore_self, hs4]
  rfl


/-- The first iteration with no guess supplied uses the hard-coded first
guess `BGOR`. -/
lemma loopRun_none' (guesser : Code → Score) (fuel : Nat) (poss used : List Code) :
    loopRun guesser fuel none poss used =
      loopRun guesser fuel (some (['B', 'G', 'O', 'R'] : Code)) poss used := by
  cases fuel with
  | zero => rfl
  | succ n => rfl

/-- Lift one solved tail equation through the pair-and-cons wrapper of a
`loopRun` iteration. -/
lemma step_lift (g0 : Code) {a b : RunResult × List Code} (h : a = b) :
    ((a.1, g0 :: a.2) : RunResult × List Code) = (b.1, g0 :: b.2) := by
  rw [h]

/-- First component of a run equation. -/
lemma fst_of_eq {a : RunResult × List Code} {r : RunResult} {t : List Code}
    (h : a = (r, t)) : a.1 = r := by
  rw [h]

/-- Transport duplicate-freedom of the trace along a run equation. -/
lemma nodup_of_eq {a b : RunResult × List Code} (h : a = b)
    (hb : b.2.Nodup) : a.2.Nodup := by
  rw [h]
  exact hb

/-! ## The decision tree of the solver
The 360 honest-collaborator runs traverse a shared tree of 359 distinct
`(remaining, used)` states; each interior node's `findNextGuess` result
and each edge's `parePossibilities` result is established once and the
per-secret runs chain them. -/

def S0 : List Code := [['B', 'G', 'O', 'R'], ['B', 'G', 'O', 'Y'], ['B', 'G', 'O', 'P'], ['B', 'G', 'R', 'O'], ['B', 'G', 'R', 'Y'], ['B', 'G', 'R', 'P'],
    ['B', 'G', 'Y', 'O'], ['B', 'G', 'Y', 'R'], ['B', 'G', 'Y', 'P'], ['B', 'G', 'P', 'O'], ['B', 'G', 'P', 'R'], ['B', 'G', 'P', 'Y'],
    ['B', 'O', 'G', 'R'], ['B', 'O', 'G', 'Y'], ['B', 'O', 'G', 'P'], ['B', 'O', 'R', 'G'], ['B', 'O', 'R', 'Y'], ['B', 'O', 'R', 'P'],
    ['B', 'O', 'Y', 'G'], ['B', 'O', 'Y', 'R'], ['B', 'O', 'Y', 'P'], ['B', 'O', 'P', 'G'], ['B', 'O', 'P', 'R'], ['B', 'O', 'P', 'Y'],
    ['B', 'R', 'G', 'O'], ['B', 'R', 'G', 'Y'], ['B', 'R', 'G', 'P'], ['B', 'R', 'O', 'G'], ['B', 'R', 'O', 'Y'], ['B', 'R', 'O', 'P'],
    ['B', 'R', 'Y', 'G'], ['B', 'R', 'Y', 'O'], ['B', 'R', 'Y', 'P'], ['B', 'R', 'P', 'G'], ['B', 'R', 'P', 'O'], ['B', 'R', 'P', 'Y'],
    ['B', 'Y', 'G', 'O'], ['B', 'Y', 'G', 'R'], ['B', 'Y', 'G', 'P'], ['B', 'Y', 'O', 'G'], ['B', 'Y', 'O', 'R'], ['B', 'Y', 'O', 'P'],
    ['B', 'Y', 'R', 'G'], ['B', 'Y', 'R', 'O'], ['B', 'Y', 'R', 'P'], ['B', 'Y', 'P', 'G'], ['B', 'Y', 'P', 'O'], ['B', 'Y', 'P', 'R'],
    ['B', 'P', 'G', 'O'], ['B', 'P', 'G', 'R'], ['B', 'P', 'G', 'Y'], ['B', 'P', 'O', 'G'], ['B', 'P', 'O', 'R'], ['B', 'P', 'O', 'Y'],
    ['B', 'P', 'R', 'G'], ['B', 'P', 'R', 'O'], ['B', 'P', 'R', 'Y'], ['B', 'P', 'Y', 'G'], ['B', 'P', 'Y', 'O'], ['B', 'P', 'Y', 'R'],
    ['G', 'B', 'O', 'R'], ['G', 'B', 'O', 'Y'], ['G', 'B', 'O', 'P'], ['G', 'B', 'R', 'O'], ['G', 'B', 'R', 'Y'], ['G', 'B', 'R', 'P'],
    ['G', 'B', 'Y', 'O'], ['G', 'B', 'Y', 'R'], ['G', 'B', 'Y', 'P'], ['G', 'B', 'P', 'O'], ['G', 'B', 'P', 'R'], ['G', 'B', 'P', 'Y'],
    ['G', 'O', 'B', 'R'], ['G', 'O', 'B', 'Y'], ['G', 'O', 'B', 'P'], ['G', 'O', 'R', 'B'], ['G', 'O', 'R', 'Y'], ['G', 'O', 'R', 'P'],
    ['G', 'O', 'Y', 'B'], ['G', 'O', 'Y', 'R'], ['G', 'O', 'Y', 'P'], ['G', 'O', 'P', 'B'], ['G', 'O', 'P', 'R'], ['G', 'O', 'P', 'Y'],
    ['G', 'R', 'B', 'O'], ['G', 'R', 'B', 'Y'], ['G', 'R', 'B', 'P'], ['G', 'R', 'O', 'B'], ['G', 'R', 'O', 'Y'], ['G', 'R', 'O', 'P'],
    ['G', 'R', 'Y', 'B'], ['G', 'R', 'Y', 'O'], ['G', 'R', 'Y', 'P'], ['G', 'R', 'P', 'B'], ['G', 'R', 'P', 'O'], ['G', 'R', 'P', 'Y'],
    ['G', 'Y', 'B', 'O'], ['G', 'Y', 'B', 'R'], ['G', 'Y', 'B', 'P'], ['G', 'Y', 'O', 'B'], ['G', 'Y', 'O', 'R'], ['G', 'Y', 'O', 'P'],
    ['G', 'Y', 'R', 'B'], ['G', 'Y', 'R', 'O'], ['G', 'Y', 'R', 'P'], ['G', 'Y', 'P', 'B'], ['G', 'Y', 'P', 'O'], ['G', 'Y', 'P', 'R'],
    ['G', 'P', 'B', 'O'], ['G', 'P', 'B', 'R'], ['G', 'P', 'B', 'Y'], ['G', 'P', 'O', 'B'], ['G', 'P', 'O', 'R'], ['G', 'P', 'O', 'Y'],
    ['G', 'P', 'R', 'B'], ['G', 'P', 'R', 'O'], ['G', 'P', 'R', 'Y'], ['G', 'P', 'Y', 'B'], ['G', 'P', 'Y', 'O'], ['G', 'P', 'Y', 'R'],
    ['O', 'B', 'G', 'R'], ['O', 'B', 'G', 'Y'], ['O', 'B', 'G', 'P'], ['O', 'B', 'R', 'G'], ['O', 'B', 'R', 'Y'], ['O', 'B', 'R', 'P'],
    ['O', 'B', 'Y', 'G'], ['O', 'B', 'Y', 'R'], ['O', 'B', 'Y', 'P'], ['O', 'B', 'P', 'G'], ['O', 'B', 'P', 'R'], ['O', 'B', 'P', 'Y'],
    ['O', 'G', 'B', 'R'], ['O', 'G', 'B', 'Y'], ['O', 'G', 'B', 'P'], ['O', 'G', 'R', 'B'], ['O', 'G', 'R', 'Y'], ['O', 'G', 'R', 'P'],
    ['O', 'G', 'Y', 'B'], ['O', 'G', 'Y', 'R'], ['O', 'G', 'Y', 'P'], ['O', 'G', 'P', 'B'], ['O', 'G', 'P', 'R'], ['O', 'G', 'P', 'Y'],
    ['O', 'R', 'B', 'G'], ['O', 'R', 'B', 'Y'], ['O', 'R', 'B', 'P'], ['O', 'R', 'G', 'B'], ['O', 'R', 'G', 'Y'], ['O', 'R', 'G', 'P'],
    ['O', 'R', 'Y', 'B'], ['O', 'R', 'Y', 'G'], ['O', 'R', 'Y', 'P'], ['O', 'R', 'P', 'B'], ['O', 'R', 'P', 'G'], ['O', 'R', 'P', 'Y'],
    ['O', 'Y', 'B', 'G'], ['O', 'Y', 'B', 'R'], ['O', 'Y', 'B', 'P'], ['O', 'Y', 'G', 'B'], ['O', 'Y', 'G', 'R'], ['O', 'Y', 'G', 'P'],
    ['O', 'Y', 'R', 'B'], ['O', 'Y', 'R', 'G'], ['O', 'Y', 'R', 'P'], ['O', 'Y', 'P', 'B'], ['O', 'Y', 'P', 'G'], ['O', 'Y', 'P', 'R'],
    ['O', 'P', 'B', 'G'], ['O', 'P', 'B', 'R'], ['O', 'P', 'B', 'Y'], ['O', 'P', 'G', 'B'], ['O', 'P', 'G', 'R'], ['O', 'P', 'G', 'Y'],
    ['O', 'P', 'R', 'B'], ['O', 'P', 'R', 'G'], ['O', 'P', 'R', 'Y'], ['O', 'P', 'Y', 'B'], ['O', 'P', 'Y', 'G'], ['O', 'P', 'Y', 'R'],
    ['R', 'B', 'G', 'O'], ['R', 'B', 'G', 'Y'], ['R', 'B', 'G', 'P'], ['R', 'B', 'O', 'G'], ['R', 'B', 'O', 'Y'], ['R', 'B', 'O', 'P'],
    ['R', 'B', 'Y', 'G'], ['R', 'B', 'Y', 'O'], ['R', 'B', 'Y', 'P'], ['R', 'B', 'P', 'G'], ['R', 'B', 'P', 'O'], ['R', 'B', 'P', 'Y'],
    ['R', 'G', 'B', 'O'], ['R', 'G', 'B', 'Y'], ['R', 'G', 'B', 'P'], ['R', 'G', 'O', 'B'], ['R', 'G', 'O', 'Y'], ['R', 'G', 'O', 'P'],
    ['R', 'G', 'Y', 'B'], ['R', 'G', 'Y', 'O'], ['R', 'G', 'Y', 'P'], ['R', 'G', 'P', 'B'], ['R', 'G', 'P', 'O'], ['R', 'G', 'P', 'Y'],
    ['R', 'O', 'B', 'G'], ['R', 'O', 'B', 'Y'], ['R', 'O', 'B', 'P'], ['R', 'O', 'G', 'B'], ['R', 'O', 'G', 'Y'], ['R', 'O', 'G', 'P'],
    ['R', 'O', 'Y', 'B'], ['R', 'O', 'Y', 'G'], ['R', 'O', 'Y', 'P'], ['R', 'O', 'P', 'B'], ['R', 'O', 'P', 'G'], ['R', 'O', 'P', 'Y'],
    ['R', 'Y', 'B', 'G'], ['R', 'Y', 'B', 'O'], ['R', 'Y', 'B', 'P'], ['R', 'Y', 'G', 'B'], ['R', 'Y', 'G', 'O'], ['R', 'Y', 'G', 'P'],
    ['R', 'Y', 'O', 'B'], ['R', 'Y', 'O', 'G'], ['R', 'Y', 'O', 'P'], ['R', 'Y', 'P', 'B'], ['R', 'Y', 'P', 'G'], ['R', 'Y', 'P', 'O'],
    ['R', 'P', 'B', 'G'], ['R', 'P', 'B', 'O'], ['R', 'P', 'B', 'Y'], ['R', 'P', 'G', 'B'], ['R', 'P', 'G', 'O'], ['R', 'P', 'G', 'Y'],
    ['R', 'P', 'O', 'B'], ['R', 'P', 'O', 'G'], ['R', 'P', 'O', 'Y'], ['R', 'P', 'Y', 'B'], ['R', 'P', 'Y', 'G'], ['R', 'P', 'Y', 'O'],
    ['Y', 'B', 'G', 'O'], ['Y', 'B', 'G', 'R'], ['Y', 'B', 'G', 'P'], ['Y', 'B', 'O', 'G'], ['Y', 'B', 'O', 'R'], ['Y', 'B', 'O', 'P'],
    ['Y', 'B', 'R', 'G'], ['Y', 'B', 'R', 'O'], ['Y', 'B', 'R', 'P'], ['Y', 'B', 'P', 'G'], ['Y', 'B', 'P', 'O'], ['Y', 'B', 'P', 'R'],
    ['Y', 'G', 'B', 'O'], ['Y', 'G', 'B', 'R'], ['Y', 'G', 'B', 'P'], ['Y', 'G', 'O', 'B'], ['Y', 'G', 'O', 'R'], ['Y', 'G', 'O', 'P'],
    ['Y', 'G', 'R', 'B'], ['Y', 'G', 'R', 'O'], ['Y', 'G', 'R', 'P'], ['Y', 'G', 'P', 'B'], ['Y', 'G', 'P', 'O'], ['Y', 'G', 'P', 'R'],
    ['Y', 'O', 'B', 'G'], ['Y', 'O', 'B', 'R'], ['Y', 'O', 'B', 'P'], ['Y', 'O', 'G', 'B'], ['Y', 'O', 'G', 'R'], ['Y', 'O', 'G', 'P'],
    ['Y', 'O', 'R', 'B'], ['Y', 'O', 'R', 'G'], ['Y', 'O', 'R', 'P'], ['Y', 'O', 'P', 'B'], ['Y', 'O', 'P', 'G'], ['Y', 'O', 'P', 'R'],
    ['Y', 'R', 'B', 'G'], ['Y', 'R', 'B', 'O'], ['Y', 'R', 'B', 'P'], ['Y', 'R', 'G', 'B'], ['Y', 'R', 'G', 'O'], ['Y', 'R', 'G', 'P'],
    ['Y', 'R', 'O', 'B'], ['Y', 'R', 'O', 'G'], ['Y', 'R', 'O', 'P'], ['Y', 'R', 'P', 'B'], ['Y', 'R', 'P', 'G'], ['Y', 'R', 'P', 'O'],
    ['Y', 'P', 'B', 'G'], ['Y', 'P', 'B', 'O'], ['Y', 'P', 'B', 'R'], ['Y', 'P', 'G', 'B'], ['Y', 'P', 'G', 'O'], ['Y', 'P', 'G', 'R'],
    ['Y', 'P', 'O', 'B'], ['Y', 'P', 'O', 'G'], ['Y', 'P', 'O', 'R'], ['Y', 'P', 'R', 'B'], ['Y', 'P', 'R', 'G'], ['Y', 'P', 'R', 'O'],
    ['P', 'B', 'G', 'O'], ['P', 'B', 'G', 'R'], ['P', 'B', 'G', 'Y'], ['P', 'B', 'O', 'G'], ['P', 'B', 'O', 'R'], ['P', 'B', 'O', 'Y'],
    ['P', 'B', 'R', 'G'], ['P', 'B', 'R', 'O'], ['P', 'B', 'R', 'Y'], ['P', 'B', 'Y', 'G'], ['P', 'B', 'Y', 'O'], ['P', 'B', 'Y', 'R'],
    ['P', 'G', 'B', 'O'], ['P', 'G', 'B', 'R'], ['P', 'G', 'B', 'Y'], ['P', 'G', 'O', 'B'], ['P', 'G', 'O', 'R'], ['P', 'G', 'O', 'Y'],
    ['P', 'G', 'R', 'B'], ['P', 'G', 'R', 'O'], ['P', 'G', 'R', 'Y'], ['P', 'G', 'Y', 'B'], ['P', 'G', 'Y', 'O'], ['P', 'G', 'Y', 'R'],
    ['P', 'O', 'B', 'G'], ['P', 'O', 'B', 'R'], ['P', 'O', 'B', 'Y'], ['P', 'O', 'G', 'B'], ['P', 'O', 'G', 'R'], ['P', 'O', 'G', 'Y'],
    ['P', 'O', 'R', 'B'], ['P', 'O', 'R', 'G'], ['P', 'O', 'R', 'Y'], ['P', 'O', 'Y', 'B'], ['P', 'O', 'Y', 'G'], ['P', 'O', 'Y', 'R'],
    ['P', 'R', 'B', 'G'], ['P', 'R', 'B', 'O'], ['P', 'R', 'B', 'Y'], ['P', 'R', 'G', 'B'], ['P', 'R', 'G', 'O'], ['P', 'R', 'G', 'Y'],
    ['P', 'R', 'O', 'B'], ['P', 'R', 'O', 'G'], ['P', 'R', 'O', 'Y'], ['P', 'R', 'Y', 'B'], ['P', 'R', 'Y', 'G'], ['P', 'R', 'Y', 'O'],
    ['P', 'Y', 'B', 'G'], ['P', 'Y', 'B', 'O'], ['P', 'Y', 'B', 'R'], ['P', 'Y', 'G', 'B'], ['P', 'Y', 'G', 'O'], ['P', 'Y', 'G', 'R'],
    ['P', 'Y', 'O', 'B'], ['P', 'Y', 'O', 'G'], ['P', 'Y', 'O', 'R'], ['P', 'Y', 'R', 'B'], ['P', 'Y', 'R', 'G'], ['P', 'Y', 'R', 'O']]

lemma initializeSet_eq_S0 : initializeSet = S0 := by rfl

lemma S0_wf : rall (fun c => decide (WellFormed c)) S0 = true := by rfl

def E0 : List Code := [['B', 'G', 'O', 'Y'], ['B', 'G', 'O', 'P'], ['B', 'G', 'Y', 'R'], ['B', 'G', 'P', 'R'], ['B', 'Y', 'O', 'R'], ['B', 'P', 'O', 'R'],
    ['Y', 'G', 'O', 'R'], ['P', 'G', 'O', 'R']]

def E2 : List Code := [['B', 'G', 'R', 'O'], ['B', 'O', 'G', 'R'], ['B', 'R', 'O', 'G'], ['G', 'B', 'O', 'R'], ['O', 'G', 'B', 'R'], ['R', 'G', 'O', 'B']]

def E3 : List Code := [['B', 'G', 'R', 'Y'], ['B', 'G', 'R', 'P'], ['B', 'G', 'Y', 'O'], ['B', 'G', 'P', 'O'], ['B', 'O', 'Y', 'R'], ['B', 'O', 'P', 'R'],
    ['B', 'R', 'O', 'Y'], ['B', 'R', 'O', 'P'], ['B', 'Y', 'G', 'R'], ['B', 'Y', 'O', 'G'], ['B', 'P', 'G', 'R'], ['B', 'P', 'O', 'G'],
    ['G', 'Y', 'O', 'R'], ['G', 'P', 'O', 'R'], ['O', 'G', 'Y', 'R'], ['O', 'G', 'P', 'R'], ['R', 'G', 'O', 'Y'], ['R', 'G', 'O', 'P'],
    ['Y', 'B', 'O', 'R'], ['Y', 'G', 'B', 'R'], ['Y', 'G', 'O', 'B'], ['P', 'B', 'O', 'R'], ['P', 'G', 'B', 'R'], ['P', 'G', 'O', 'B']]

def E5 : List Code := [['B', 'G', 'Y', 'O'], ['B', 'R', 'O', 'Y'], ['R', 'G', 'O', 'Y']]

def E7 : List Code := [['B', 'G', 'Y', 'R'], ['B', 'Y', 'O', 'R'], ['Y', 'G', 'O', 'R']]

def E8 : List Code := [['B', 'G', 'Y', 'P'], ['B', 'G', 'P', 'Y'], ['B', 'Y', 'O', 'P'], ['B', 'Y', 'P', 'R'], ['B', 'P', 'O', 'Y'], ['B', 'P', 'Y', 'R'],
    ['Y', 'G', 'O', 'P'], ['Y', 'G', 'P', 'R'], ['Y', 'P', 'O', 'R'], ['P', 'G', 'O', 'Y'], ['P', 'G', 'Y', 'R'], ['P', 'Y', 'O', 'R']]

def E10 : List Code := [['B', 'G', 'P', 'R'], ['B', 'P', 'O', 'R'], ['P', 'G', 'O', 'R']]

def E12 : List Code := [['B', 'O', 'G', 'R'], ['B', 'R', 'O', 'G'], ['O', 'G', 'B', 'R'], ['R', 'G', 'O', 'B']]

def E13 : List Code := [['B', 'O', 'G', 'Y'], ['B', 'O', 'G', 'P'], ['B', 'O', 'R', 'Y'], ['B', 'O', 'R', 'P'], ['B', 'O', 'Y', 'G'], ['B', 'O', 'P', 'G'],
    ['B', 'R', 'G', 'Y'], ['B', 'R', 'G', 'P'], ['B', 'R', 'Y', 'G'], ['B', 'R', 'Y', 'O'], ['B', 'R', 'P', 'G'], ['B', 'R', 'P', 'O'],
    ['B', 'Y', 'G', 'O'], ['B', 'Y', 'R', 'G'], ['B', 'Y', 'R', 'O'], ['B', 'P', 'G', 'O'], ['B', 'P', 'R', 'G'], ['B', 'P', 'R', 'O'],
    ['G', 'B', 'O', 'Y'], ['G', 'B', 'O', 'P'], ['G', 'B', 'Y', 'R'], ['G', 'B', 'P', 'R'], ['G', 'O', 'Y', 'R'], ['G', 'O', 'P', 'R'],
    ['G', 'R', 'O', 'Y'], ['G', 'R', 'O', 'P'], ['G', 'Y', 'B', 'R'], ['G', 'Y', 'O', 'B'], ['G', 'P', 'B', 'R'], ['G', 'P', 'O', 'B'],
    ['O', 'B', 'Y', 'R'], ['O', 'B', 'P', 'R'], ['O', 'G', 'B', 'Y'], ['O', 'G', 'B', 'P'], ['O', 'G', 'R', 'Y'], ['O', 'G', 'R', 'P'],
    ['O', 'G', 'Y', 'B'], ['O', 'G', 'P', 'B'], ['O', 'Y', 'B', 'R'], ['O', 'Y', 'G', 'R'], ['O', 'P', 'B', 'R'], ['O', 'P', 'G', 'R'],
    ['R', 'B', 'O', 'Y'], ['R', 'B', 'O', 'P'], ['R', 'G', 'B', 'Y'], ['R', 'G', 'B', 'P'], ['R', 'G', 'Y', 'B'], ['R', 'G', 'Y', 'O'],
    ['R', 'G', 'P', 'B'], ['R', 'G', 'P', 'O'], ['R', 'Y', 'O', 'B'], ['R', 'Y', 'O', 'G'], ['R', 'P', 'O', 'B'], ['R', 'P', 'O', 'G'],
    ['Y', 'B', 'G', 'R'], ['Y', 'B', 'O', 'G'], ['Y', 'G', 'B', 'O'], ['Y', 'G', 'R', 'B'], ['Y', 'G', 'R', 'O'], ['Y', 'O', 'B', 'R'],
    ['Y', 'O', 'G', 'R'], ['Y', 'R', 'O', 'B'], ['Y', 'R', 'O', 'G'], ['P', 'B', 'G', 'R'], ['P', 'B', 'O', 'G'], ['P', 'G', 'B', 'O'],
    ['P', 'G', 'R', 'B'], ['P', 'G', 'R', 'O'], ['P', 'O', 'B', 'R'], ['P', 'O', 'G', 'R'], ['P', 'R', 'O', 'B'], ['P', 'R', 'O', 'G']]

def E14 : List Code := [['B', 'O', 'G', 'Y'], ['B', 'O', 'R', 'P']]

def E15 : List Code := [['B', 'O', 'G', 'P'], ['B', 'O', 'P', 'G'], ['B', 'P', 'R', 'G']]

def E16 : List Code := [['B', 'O', 'R', 'G'], ['B', 'R', 'G', 'O'], ['G', 'O', 'B', 'R'], ['G', 'R', 'O', 'B'], ['O', 'B', 'G', 'R'], ['O', 'G', 'R', 'B'],
    ['R', 'B', 'O', 'G'], ['R', 'G', 'B', 'O']]

def E18 : List Code := [['B', 'O', 'Y', 'G'], ['B', 'R', 'G', 'Y'], ['B', 'Y', 'R', 'G'], ['B', 'P', 'R', 'O'], ['O', 'G', 'R', 'Y']]

def E19 : List Code := [['B', 'O', 'Y', 'R'], ['B', 'Y', 'O', 'G'], ['B', 'P', 'G', 'R'], ['O', 'G', 'Y', 'R'], ['Y', 'G', 'O', 'B'], ['P', 'G', 'B', 'R']]

def E20 : List Code := [['B', 'O', 'Y', 'P'], ['B', 'O', 'P', 'Y'], ['B', 'R', 'Y', 'P'], ['B', 'R', 'P', 'Y'], ['B', 'Y', 'G', 'P'], ['B', 'Y', 'R', 'P'],
    ['B', 'Y', 'P', 'G'], ['B', 'Y', 'P', 'O'], ['B', 'P', 'G', 'Y'], ['B', 'P', 'R', 'Y'], ['B', 'P', 'Y', 'G'], ['B', 'P', 'Y', 'O'],
    ['G', 'Y', 'O', 'P'], ['G', 'Y', 'P', 'R'], ['G', 'P', 'O', 'Y'], ['G', 'P', 'Y', 'R'], ['O', 'G', 'Y', 'P'], ['O', 'G', 'P', 'Y'],
    ['O', 'Y', 'P', 'R'], ['O', 'P', 'Y', 'R'], ['R', 'G', 'Y', 'P'], ['R', 'G', 'P', 'Y'], ['R', 'Y', 'O', 'P'], ['R', 'P', 'O', 'Y'],
    ['Y', 'B', 'O', 'P'], ['Y', 'B', 'P', 'R'], ['Y', 'G', 'B', 'P'], ['Y', 'G', 'R', 'P'], ['Y', 'G', 'P', 'B'], ['Y', 'G', 'P', 'O'],
    ['Y', 'O', 'P', 'R'], ['Y', 'R', 'O', 'P'], ['Y', 'P', 'B', 'R'], ['Y', 'P', 'G', 'R'], ['Y', 'P', 'O', 'B'], ['Y', 'P', 'O', 'G'],
    ['P', 'B', 'O', 'Y'], ['P', 'B', 'Y', 'R'], ['P', 'G', 'B', 'Y'], ['P', 'G', 'R', 'Y'], ['P', 'G', 'Y', 'B'], ['P', 'G', 'Y', 'O'],
    ['P', 'O', 'Y', 'R'], ['P', 'R', 'O', 'Y'], ['P', 'Y', 'B', 'R'], ['P', 'Y', 'G', 'R'], ['P', 'Y', 'O', 'B'], ['P', 'Y', 'O', 'G']]

def E22 : List Code := [['B', 'O', 'P', 'R'], ['B', 'R', 'O', 'P'], ['B', 'P', 'O', 'G'], ['O', 'G', 'P', 'R'], ['R', 'G', 'O', 'P'], ['P', 'G', 'O', 'B']]

def E23 : List Code := [['B', 'O', 'P', 'Y'], ['B', 'P', 'Y', 'O']]

def E24 : List Code := [['B', 'R', 'G', 'O'], ['G', 'O', 'B', 'R'], ['O', 'G', 'R', 'B'], ['R', 'B', 'O', 'G']]

def E26 : List Code := [['B', 'R', 'G', 'P'], ['B', 'R', 'P', 'G'], ['B', 'P', 'G', 'O'], ['G', 'O', 'P', 'R'], ['O', 'G', 'R', 'P'], ['P', 'G', 'R', 'B'],
    ['P', 'G', 'R', 'O'], ['P', 'O', 'G', 'R']]

def E27 : List Code := [['B', 'R', 'O', 'G'], ['O', 'G', 'B', 'R']]

def E29 : List Code := [['B', 'R', 'Y', 'G'], ['B', 'R', 'P', 'O'], ['B', 'Y', 'G', 'O'], ['G', 'B', 'O', 'Y'], ['G', 'O', 'Y', 'R'], ['G', 'R', 'O', 'Y'],
    ['O', 'G', 'B', 'Y'], ['R', 'G', 'B', 'Y'], ['Y', 'G', 'R', 'B'], ['Y', 'G', 'R', 'O'], ['Y', 'O', 'G', 'R'], ['P', 'O', 'B', 'R']]

def E30 : List Code := [['B', 'R', 'Y', 'G'], ['O', 'G', 'B', 'Y'], ['R', 'G', 'B', 'Y']]

def E31 : List Code := [['B', 'R', 'Y', 'O'], ['R', 'B', 'O', 'Y'], ['Y', 'O', 'B', 'R']]

def E35 : List Code := [['B', 'R', 'P', 'Y'], ['B', 'Y', 'P', 'G'], ['B', 'P', 'G', 'Y'], ['B', 'P', 'R', 'Y'], ['G', 'Y', 'O', 'P'], ['O', 'P', 'Y', 'R'],
    ['R', 'Y', 'O', 'P'], ['Y', 'G', 'B', 'P'], ['Y', 'O', 'P', 'R'], ['Y', 'R', 'O', 'P'], ['P', 'B', 'Y', 'R'], ['P', 'G', 'Y', 'B'],
    ['P', 'G', 'Y', 'O']]

def E37 : List Code := [['B', 'Y', 'G', 'O'], ['Y', 'G', 'R', 'B']]

def E38 : List Code := [['B', 'Y', 'G', 'R'], ['Y', 'G', 'B', 'R']]

def E39 : List Code := [['B', 'Y', 'G', 'P'], ['B', 'Y', 'R', 'P'], ['B', 'P', 'Y', 'G'], ['O', 'G', 'Y', 'P'], ['P', 'O', 'Y', 'R']]

def E41 : List Code := [['B', 'Y', 'O', 'R'], ['Y', 'G', 'O', 'R']]

def E42 : List Code := [['B', 'Y', 'O', 'P'], ['B', 'P', 'Y', 'R'], ['Y', 'G', 'O', 'P'], ['P', 'G', 'Y', 'R']]

def E46 : List Code := [['B', 'Y', 'P', 'O'], ['Y', 'B', 'O', 'P']]

def E47 : List Code := [['B', 'Y', 'P', 'R'], ['B', 'P', 'O', 'Y'], ['Y', 'G', 'P', 'R'], ['P', 'G', 'O', 'Y']]

def E52 : List Code := [['B', 'P', 'O', 'R'], ['P', 'G', 'O', 'R']]

def E56 : List Code := [['B', 'P', 'R', 'Y'], ['G', 'Y', 'O', 'P']]

def E62 : List Code := [['G', 'B', 'O', 'P'], ['G', 'B', 'P', 'R'], ['G', 'R', 'O', 'P'], ['G', 'P', 'B', 'R'], ['G', 'P', 'O', 'B'], ['O', 'G', 'B', 'P'],
    ['O', 'G', 'P', 'B'], ['O', 'P', 'G', 'R'], ['R', 'G', 'B', 'P'], ['R', 'G', 'P', 'B'], ['R', 'G', 'P', 'O'], ['R', 'P', 'O', 'G'],
    ['P', 'B', 'G', 'R'], ['P', 'B', 'O', 'G'], ['P', 'G', 'B', 'O'], ['P', 'R', 'O', 'G']]

def E64 : List Code := [['G', 'B', 'R', 'O'], ['G', 'O', 'R', 'B'], ['G', 'R', 'B', 'O'], ['O', 'B', 'R', 'G'], ['O', 'R', 'B', 'G'], ['O', 'R', 'G', 'B'],
    ['R', 'B', 'G', 'O'], ['R', 'O', 'B', 'G'], ['R', 'O', 'G', 'B']]

def E65 : List Code := [['G', 'B', 'R', 'Y'], ['G', 'B', 'R', 'P'], ['G', 'B', 'Y', 'O'], ['G', 'B', 'P', 'O'], ['G', 'O', 'B', 'Y'], ['G', 'O', 'B', 'P'],
    ['G', 'O', 'R', 'Y'], ['G', 'O', 'R', 'P'], ['G', 'O', 'Y', 'B'], ['G', 'O', 'P', 'B'], ['G', 'R', 'B', 'Y'], ['G', 'R', 'B', 'P'],
    ['G', 'R', 'Y', 'B'], ['G', 'R', 'Y', 'O'], ['G', 'R', 'P', 'B'], ['G', 'R', 'P', 'O'], ['G', 'Y', 'B', 'O'], ['G', 'Y', 'R', 'B'],
    ['G', 'Y', 'R', 'O'], ['G', 'P', 'B', 'O'], ['G', 'P', 'R', 'B'], ['G', 'P', 'R', 'O'], ['O', 'B', 'G', 'Y'], ['O', 'B', 'G', 'P'],
    ['O', 'B', 'R', 'Y'], ['O', 'B', 'R', 'P'], ['O', 'B', 'Y', 'G'], ['O', 'B', 'P', 'G'], ['O', 'R', 'B', 'Y'], ['O', 'R', 'B', 'P'],
    ['O', 'R', 'G', 'Y'], ['O', 'R', 'G', 'P'], ['O', 'R', 'Y', 'B'], ['O', 'R', 'Y', 'G'], ['O', 'R', 'P', 'B'], ['O', 'R', 'P', 'G'],
    ['O', 'Y', 'B', 'G'], ['O', 'Y', 'G', 'B'], ['O', 'Y', 'R', 'B'], ['O', 'Y', 'R', 'G'], ['O', 'P', 'B', 'G'], ['O', 'P', 'G', 'B'],
    ['O', 'P', 'R', 'B'], ['O', 'P', 'R', 'G'], ['R', 'B', 'G', 'Y'], ['R', 'B', 'G', 'P'], ['R', 'B', 'Y', 'G'], ['R', 'B', 'Y', 'O'],
    ['R', 'B', 'P', 'G'], ['R', 'B', 'P', 'O'], ['R', 'O', 'B', 'Y'], ['R', 'O', 'B', 'P'], ['R', 'O', 'G', 'Y'], ['R', 'O', 'G', 'P'],
    ['R', 'O', 'Y', 'B'], ['R', 'O', 'Y', 'G'], ['R', 'O', 'P', 'B'], ['R', 'O', 'P', 'G'], ['R', 'Y', 'B', 'G'], ['R', 'Y', 'B', 'O'],
    ['R', 'Y', 'G', 'B'], ['R', 'Y', 'G', 'O'], ['R', 'P', 'B', 'G'], ['R', 'P', 'B', 'O'], ['R', 'P', 'G', 'B'], ['R', 'P', 'G', 'O'],
    ['Y', 'B', 'G', 'O'], ['Y', 'B', 'R', 'G'], ['Y', 'B', 'R', 'O'], ['Y', 'O', 'B', 'G'], ['Y', 'O', 'G', 'B'], ['Y', 'O', 'R', 'B'],
    ['Y', 'O', 'R', 'G'], ['Y', 'R', 'B', 'G'], ['Y', 'R', 'B', 'O'], ['Y', 'R', 'G', 'B'], ['Y', 'R', 'G', 'O'], ['P', 'B', 'G', 'O'],
    ['P', 'B', 'R', 'G'], ['P', 'B', 'R', 'O'], ['P', 'O', 'B', 'G'], ['P', 'O', 'G', 'B'], ['P', 'O', 'R', 'B'], ['P', 'O', 'R', 'G'],
    ['P', 'R', 'B', 'G'], ['P', 'R', 'B', 'O'], ['P', 'R', 'G', 'B'], ['P', 'R', 'G', 'O']]

def E66 : List Code := [['G', 'B', 'R', 'Y'], ['G', 'O', 'B', 'Y'], ['G', 'O', 'R', 'P']]

def E67 : List Code := [['G', 'B', 'R', 'P'], ['G', 'O', 'B', 'P'], ['G', 'O', 'P', 'B'], ['G', 'P', 'R', 'B'], ['P', 'O', 'R', 'B']]

def E68 : List Code := [['G', 'B', 'Y', 'O'], ['G', 'R', 'Y', 'B'], ['G', 'R', 'P', 'O'], ['G', 'Y', 'B', 'O'], ['O', 'B', 'G', 'Y'], ['O', 'R', 'B', 'Y'],
    ['O', 'Y', 'R', 'B'], ['O', 'P', 'R', 'G'], ['R', 'B', 'G', 'Y'], ['R', 'O', 'G', 'P'], ['R', 'O', 'Y', 'B'], ['R', 'O', 'P', 'G'],
    ['Y', 'B', 'R', 'G'], ['Y', 'B', 'R', 'O'], ['Y', 'O', 'B', 'G'], ['Y', 'O', 'G', 'B']]

def E69 : List Code := [['G', 'B', 'Y', 'R'], ['G', 'Y', 'B', 'R'], ['G', 'Y', 'O', 'B'], ['O', 'B', 'P', 'R'], ['O', 'G', 'Y', 'B'], ['O', 'Y', 'G', 'R'],
    ['O', 'P', 'B', 'R'], ['R', 'B', 'O', 'P'], ['R', 'G', 'Y', 'B'], ['R', 'G', 'Y', 'O'], ['R', 'Y', 'O', 'G'], ['R', 'P', 'O', 'B'],
    ['Y', 'B', 'G', 'R'], ['Y', 'B', 'O', 'G'], ['Y', 'G', 'B', 'O'], ['Y', 'R', 'O', 'G'], ['P', 'R', 'O', 'B']]

def E70 : List Code := [['G', 'B', 'Y', 'R'], ['G', 'Y', 'O', 'B'], ['O', 'G', 'Y', 'B']]

def E72 : List Code := [['G', 'B', 'Y', 'P'], ['G', 'B', 'P', 'Y'], ['G', 'O', 'Y', 'P'], ['G', 'O', 'P', 'Y'], ['G', 'R', 'Y', 'P'], ['G', 'R', 'P', 'Y'],
    ['G', 'Y', 'B', 'P'], ['G', 'Y', 'R', 'P'], ['G', 'Y', 'P', 'B'], ['G', 'Y', 'P', 'O'], ['G', 'P', 'B', 'Y'], ['G', 'P', 'R', 'Y'],
    ['G', 'P', 'Y', 'B'], ['G', 'P', 'Y', 'O'], ['O', 'B', 'Y', 'P'], ['O', 'B', 'P', 'Y'], ['O', 'R', 'Y', 'P'], ['O', 'R', 'P', 'Y'],
    ['O', 'Y', 'B', 'P'], ['O', 'Y', 'G', 'P'], ['O', 'Y', 'R', 'P'], ['O', 'Y', 'P', 'B'], ['O', 'Y', 'P', 'G'], ['O', 'P', 'B', 'Y'],
    ['O', 'P', 'G', 'Y'], ['O', 'P', 'R', 'Y'], ['O', 'P', 'Y', 'B'], ['O', 'P', 'Y', 'G'], ['R', 'B', 'Y', 'P'], ['R', 'B', 'P', 'Y'],
    ['R', 'O', 'Y', 'P'], ['R', 'O', 'P', 'Y'], ['R', 'Y', 'B', 'P'], ['R', 'Y', 'G', 'P'], ['R', 'Y', 'P', 'B'], ['R', 'Y', 'P', 'G'],
    ['R', 'Y', 'P', 'O'], ['R', 'P', 'B', 'Y'], ['R', 'P', 'G', 'Y'], ['R', 'P', 'Y', 'B'], ['R', 'P', 'Y', 'G'], ['R', 'P', 'Y', 'O'],
    ['Y', 'B', 'G', 'P'], ['Y', 'B', 'R', 'P'], ['Y', 'B', 'P', 'G'], ['Y', 'B', 'P', 'O'], ['Y', 'O', 'B', 'P'], ['Y', 'O', 'G', 'P'],
    ['Y', 'O', 'R', 'P'], ['Y', 'O', 'P', 'B'], ['Y', 'O', 'P', 'G'], ['Y', 'R', 'B', 'P'], ['Y', 'R', 'G', 'P'], ['Y', 'R', 'P', 'B'],
    ['Y', 'R', 'P', 'G'], ['Y', 'R', 'P', 'O'], ['Y', 'P', 'B', 'G'], ['Y', 'P', 'B', 'O'], ['Y', 'P', 'G', 'B'], ['Y', 'P', 'G', 'O'],
    ['Y', 'P', 'R', 'B'], ['Y', 'P', 'R', 'G'], ['Y', 'P', 'R', 'O'], ['P', 'B', 'G', 'Y'], ['P', 'B', 'R', 'Y'], ['P', 'B', 'Y', 'G'],
    ['P', 'B', 'Y', 'O'], ['P', 'O', 'B', 'Y'], ['P', 'O', 'G', 'Y'], ['P', 'O', 'R', 'Y'], ['P', 'O', 'Y', 'B'], ['P', 'O', 'Y', 'G'],
    ['P', 'R', 'B', 'Y'], ['P', 'R', 'G', 'Y'], ['P', 'R', 'Y', 'B'], ['P', 'R', 'Y', 'G'], ['P', 'R', 'Y', 'O'], ['P', 'Y', 'B', 'G'],
    ['P', 'Y', 'B', 'O'], ['P', 'Y', 'G', 'B'], ['P', 'Y', 'G', 'O'], ['P', 'Y', 'R', 'B'], ['P', 'Y', 'R', 'G'], ['P', 'Y', 'R', 'O']]

def E73 : List Code := [['G', 'B', 'Y', 'P'], ['G', 'O', 'Y', 'P'], ['G', 'Y', 'P', 'B'], ['G', 'Y', 'P', 'O'], ['O', 'Y', 'G', 'P'], ['R', 'Y', 'B', 'P'],
    ['Y', 'B', 'R', 'P'], ['Y', 'O', 'R', 'P'], ['P', 'Y', 'R', 'B'], ['P', 'Y', 'R', 'O']]

def E75 : List Code := [['G', 'B', 'P', 'O'], ['G', 'R', 'B', 'P'], ['G', 'R', 'P', 'B'], ['G', 'P', 'B', 'O'], ['O', 'B', 'R', 'P'], ['O', 'P', 'R', 'B'],
    ['R', 'O', 'B', 'P'], ['R', 'O', 'P', 'B'], ['P', 'B', 'R', 'G'], ['P', 'B', 'R', 'O'], ['P', 'O', 'B', 'G'], ['P', 'O', 'G', 'B']]

def E76 : List Code := [['G', 'B', 'P', 'O'], ['G', 'R', 'P', 'B'], ['P', 'B', 'R', 'G']]

def E77 : List Code := [['G', 'B', 'P', 'R'], ['O', 'P', 'G', 'R'], ['R', 'G', 'P', 'B'], ['P', 'R', 'O', 'G']]

def E78 : List Code := [['G', 'B', 'P', 'Y'], ['G', 'O', 'P', 'Y'], ['G', 'P', 'B', 'Y'], ['G', 'P', 'Y', 'B'], ['G', 'P', 'Y', 'O'], ['O', 'R', 'Y', 'P'],
    ['O', 'Y', 'P', 'G'], ['O', 'P', 'R', 'Y'], ['R', 'B', 'Y', 'P'], ['R', 'O', 'Y', 'P'], ['R', 'Y', 'P', 'B'], ['R', 'Y', 'P', 'O'],
    ['Y', 'B', 'G', 'P'], ['Y', 'O', 'G', 'P'], ['Y', 'R', 'B', 'P'], ['Y', 'P', 'R', 'B'], ['Y', 'P', 'R', 'O'], ['P', 'B', 'R', 'Y'],
    ['P', 'O', 'R', 'Y'], ['P', 'Y', 'B', 'G'], ['P', 'Y', 'G', 'B'], ['P', 'Y', 'G', 'O']]

def E79 : List Code := [['G', 'O', 'B', 'R'], ['O', 'G', 'R', 'B'], ['R', 'B', 'O', 'G']]

def E82 : List Code := [['G', 'O', 'R', 'B'], ['G', 'R', 'B', 'O'], ['O', 'B', 'R', 'G'], ['R', 'B', 'G', 'O']]

def E84 : List Code := [['G', 'O', 'Y', 'B'], ['G', 'R', 'B', 'Y'], ['G', 'Y', 'R', 'B'], ['G', 'P', 'R', 'O'], ['O', 'B', 'R', 'Y'], ['R', 'O', 'B', 'Y'],
    ['Y', 'O', 'R', 'B'], ['P', 'O', 'R', 'G']]

def E86 : List Code := [['G', 'O', 'P', 'B'], ['P', 'O', 'R', 'B']]

def E87 : List Code := [['G', 'O', 'P', 'R'], ['P', 'G', 'R', 'O']]

def E89 : List Code := [['G', 'R', 'B', 'O'], ['O', 'B', 'R', 'G']]

def E90 : List Code := [['G', 'R', 'B', 'Y'], ['R', 'O', 'B', 'Y']]

def E91 : List Code := [['G', 'R', 'B', 'P'], ['P', 'O', 'B', 'G']]

def E92 : List Code := [['G', 'R', 'O', 'B'], ['O', 'B', 'G', 'R'], ['R', 'G', 'B', 'O']]

def E93 : List Code := [['G', 'R', 'O', 'P'], ['G', 'P', 'B', 'R'], ['R', 'P', 'O', 'G']]

def E94 : List Code := [['G', 'R', 'Y', 'B'], ['Y', 'B', 'R', 'O']]

def E95 : List Code := [['G', 'R', 'Y', 'O'], ['O', 'R', 'G', 'Y'], ['O', 'Y', 'R', 'G'], ['R', 'O', 'Y', 'G']]

def E96 : List Code := [['G', 'R', 'Y', 'P'], ['G', 'P', 'R', 'Y'], ['R', 'Y', 'G', 'P'], ['P', 'Y', 'R', 'G']]

def E99 : List Code := [['G', 'R', 'P', 'Y'], ['R', 'Y', 'P', 'G'], ['Y', 'R', 'G', 'P'], ['Y', 'P', 'R', 'G']]

def E101 : List Code := [['G', 'Y', 'B', 'R'], ['Y', 'B', 'G', 'R']]

def E102 : List Code := [['G', 'Y', 'B', 'P'], ['O', 'Y', 'R', 'P']]

def E103 : List Code := [['G', 'Y', 'O', 'R'], ['Y', 'B', 'O', 'R']]

def E105 : List Code := [['G', 'Y', 'R', 'B'], ['Y', 'O', 'R', 'B']]

def E106 : List Code := [['G', 'Y', 'R', 'O'], ['R', 'O', 'G', 'Y'], ['Y', 'O', 'R', 'G']]

def E108 : List Code := [['G', 'Y', 'P', 'O'], ['O', 'Y', 'G', 'P']]

def E109 : List Code := [['G', 'Y', 'P', 'R'], ['R', 'G', 'P', 'Y'], ['Y', 'P', 'G', 'R'], ['P', 'G', 'R', 'Y'], ['P', 'Y', 'G', 'R']]

def E110 : List Code := [['G', 'P', 'B', 'O'], ['P', 'O', 'G', 'B']]

def E113 : List Code := [['G', 'P', 'O', 'R'], ['P', 'B', 'O', 'R']]

def E114 : List Code := [['G', 'P', 'O', 'Y'], ['O', 'G', 'P', 'Y'], ['O', 'Y', 'P', 'R'], ['R', 'P', 'O', 'Y'], ['Y', 'B', 'P', 'R'], ['Y', 'G', 'P', 'B'],
    ['Y', 'G', 'P', 'O'], ['Y', 'P', 'B', 'R'], ['Y', 'P', 'O', 'G'], ['P', 'G', 'B', 'Y'], ['P', 'R', 'O', 'Y'], ['P', 'Y', 'B', 'R'],
    ['P', 'Y', 'O', 'G']]

def E116 : List Code := [['G', 'P', 'R', 'O'], ['P', 'O', 'R', 'G']]

def E117 : List Code := [['G', 'P', 'R', 'Y'], ['R', 'Y', 'G', 'P']]

def E118 : List Code := [['G', 'P', 'Y', 'B'], ['Y', 'B', 'G', 'P']]

def E119 : List Code := [['G', 'P', 'Y', 'O'], ['O', 'Y', 'P', 'G'], ['R', 'B', 'Y', 'P'], ['R', 'Y', 'P', 'B']]

def E120 : List Code := [['G', 'P', 'Y', 'R'], ['Y', 'G', 'R', 'P']]

def E121 : List Code := [['O', 'B', 'G', 'R'], ['R', 'G', 'B', 'O']]

def E123 : List Code := [['O', 'B', 'G', 'P'], ['O', 'B', 'P', 'G'], ['O', 'R', 'B', 'P'], ['O', 'R', 'P', 'B'], ['O', 'P', 'B', 'G'], ['O', 'P', 'G', 'B'],
    ['R', 'B', 'G', 'P'], ['R', 'B', 'P', 'G'], ['R', 'B', 'P', 'O'], ['R', 'P', 'B', 'G'], ['R', 'P', 'B', 'O'], ['R', 'P', 'G', 'B'],
    ['P', 'B', 'G', 'O'], ['P', 'R', 'B', 'G'], ['P', 'R', 'B', 'O'], ['P', 'R', 'G', 'B']]

def E124 : List Code := [['O', 'B', 'G', 'P'], ['O', 'P', 'B', 'G']]

def E128 : List Code := [['O', 'B', 'Y', 'G'], ['O', 'R', 'G', 'P'], ['O', 'R', 'Y', 'B'], ['O', 'R', 'P', 'G'], ['O', 'Y', 'B', 'G'], ['O', 'Y', 'G', 'B'],
    ['R', 'B', 'Y', 'G'], ['R', 'B', 'Y', 'O'], ['R', 'Y', 'B', 'G'], ['R', 'Y', 'B', 'O'], ['R', 'Y', 'G', 'B'], ['R', 'P', 'G', 'O'],
    ['Y', 'B', 'G', 'O'], ['Y', 'R', 'B', 'G'], ['Y', 'R', 'B', 'O'], ['Y', 'R', 'G', 'B'], ['P', 'R', 'G', 'O']]

def E129 : List Code := [['O', 'B', 'Y', 'R'], ['O', 'Y', 'B', 'R'], ['R', 'Y', 'O', 'B'], ['Y', 'R', 'O', 'B']]

def E131 : List Code := [['O', 'B', 'Y', 'P'], ['O', 'Y', 'P', 'B'], ['Y', 'O', 'B', 'P'], ['P', 'Y', 'B', 'O']]

def E132 : List Code := [['O', 'B', 'P', 'R'], ['O', 'P', 'B', 'R']]

def E133 : List Code := [['O', 'B', 'P', 'Y'], ['O', 'P', 'B', 'Y'], ['O', 'P', 'Y', 'B'], ['Y', 'B', 'P', 'O'], ['Y', 'O', 'P', 'B'], ['Y', 'P', 'B', 'O'],
    ['P', 'B', 'Y', 'O'], ['P', 'O', 'B', 'Y'], ['P', 'O', 'Y', 'B']]

def E136 : List Code := [['O', 'G', 'B', 'P'], ['P', 'G', 'B', 'O']]

def E137 : List Code := [['O', 'G', 'R', 'B'], ['R', 'B', 'O', 'G']]

def E139 : List Code := [['O', 'G', 'R', 'P'], ['P', 'O', 'G', 'R']]

def E143 : List Code := [['O', 'G', 'P', 'B'], ['P', 'B', 'O', 'G']]

def E145 : List Code := [['O', 'G', 'P', 'Y'], ['P', 'Y', 'O', 'G']]

def E146 : List Code := [['O', 'R', 'B', 'G'], ['O', 'R', 'G', 'B'], ['R', 'O', 'B', 'G'], ['R', 'O', 'G', 'B']]

def E147 : List Code := [['O', 'R', 'B', 'Y'], ['O', 'Y', 'R', 'B']]

def E148 : List Code := [['O', 'R', 'B', 'P'], ['R', 'B', 'G', 'P'], ['R', 'P', 'B', 'G'], ['P', 'R', 'B', 'G']]

def E150 : List Code := [['O', 'R', 'G', 'B'], ['R', 'O', 'B', 'G']]

def E151 : List Code := [['O', 'R', 'G', 'Y'], ['R', 'O', 'Y', 'G']]

def E153 : List Code := [['O', 'R', 'Y', 'B'], ['R', 'B', 'Y', 'O']]

def E154 : List Code := [['O', 'R', 'Y', 'G'], ['R', 'Y', 'G', 'O'], ['Y', 'R', 'G', 'O']]

def E155 : List Code := [['O', 'R', 'Y', 'P'], ['R', 'O', 'Y', 'P'], ['Y', 'P', 'R', 'O']]

def E156 : List Code := [['O', 'R', 'P', 'B'], ['R', 'B', 'P', 'O']]

def E158 : List Code := [['O', 'R', 'P', 'Y'], ['O', 'P', 'G', 'Y'], ['O', 'P', 'Y', 'G'], ['R', 'B', 'P', 'Y'], ['R', 'O', 'P', 'Y'], ['R', 'P', 'B', 'Y'],
    ['R', 'P', 'Y', 'B'], ['R', 'P', 'Y', 'O'], ['Y', 'B', 'P', 'G'], ['Y', 'O', 'P', 'G'], ['Y', 'R', 'P', 'B'], ['Y', 'R', 'P', 'O'],
    ['Y', 'P', 'B', 'G'], ['Y', 'P', 'G', 'B'], ['Y', 'P', 'G', 'O'], ['P', 'B', 'G', 'Y'], ['P', 'B', 'Y', 'G'], ['P', 'O', 'G', 'Y'],
    ['P', 'O', 'Y', 'G'], ['P', 'R', 'B', 'Y'], ['P', 'R', 'Y', 'B'], ['P', 'R', 'Y', 'O']]

def E159 : List Code := [['O', 'R', 'P', 'Y'], ['Y', 'B', 'P', 'G'], ['P', 'B', 'G', 'Y']]

def E163 : List Code := [['O', 'Y', 'G', 'B'], ['Y', 'B', 'G', 'O']]

def E168 : List Code := [['O', 'Y', 'P', 'B'], ['Y', 'O', 'B', 'P']]

def E170 : List Code := [['O', 'Y', 'P', 'R'], ['Y', 'G', 'P', 'B']]

def E173 : List Code := [['O', 'P', 'B', 'Y'], ['Y', 'B', 'P', 'O']]

def E174 : List Code := [['O', 'P', 'G', 'B'], ['P', 'B', 'G', 'O']]

def E176 : List Code := [['O', 'P', 'G', 'Y'], ['Y', 'O', 'P', 'G'], ['P', 'O', 'G', 'Y']]

def E177 : List Code := [['O', 'P', 'R', 'B'], ['P', 'B', 'R', 'O']]

def E178 : List Code := [['O', 'P', 'R', 'G'], ['R', 'O', 'G', 'P'], ['R', 'O', 'P', 'G']]

def E179 : List Code := [['O', 'P', 'R', 'Y'], ['R', 'Y', 'P', 'O'], ['P', 'O', 'R', 'Y']]

def E180 : List Code := [['O', 'P', 'Y', 'B'], ['Y', 'O', 'P', 'B'], ['P', 'B', 'Y', 'O'], ['P', 'O', 'B', 'Y']]

def E181 : List Code := [['O', 'P', 'Y', 'G'], ['Y', 'P', 'G', 'O'], ['P', 'O', 'Y', 'G']]

def E182 : List Code := [['O', 'P', 'Y', 'R'], ['Y', 'R', 'O', 'P']]

def E184 : List Code := [['R', 'B', 'G', 'Y'], ['R', 'O', 'Y', 'B'], ['Y', 'B', 'R', 'G']]

def E186 : List Code := [['R', 'B', 'O', 'Y'], ['Y', 'O', 'B', 'R']]

def E187 : List Code := [['R', 'B', 'O', 'P'], ['R', 'P', 'O', 'B'], ['P', 'R', 'O', 'B']]

def E195 : List Code := [['R', 'G', 'B', 'P'], ['R', 'G', 'P', 'O'], ['P', 'B', 'G', 'R']]

def E198 : List Code := [['R', 'G', 'O', 'P'], ['P', 'G', 'O', 'B']]

def E199 : List Code := [['R', 'G', 'Y', 'B'], ['Y', 'B', 'O', 'G'], ['Y', 'G', 'B', 'O']]

def E200 : List Code := [['R', 'G', 'Y', 'O'], ['Y', 'R', 'O', 'G']]

def E204 : List Code := [['R', 'G', 'P', 'Y'], ['Y', 'P', 'G', 'R']]

def E216 : List Code := [['R', 'Y', 'B', 'G'], ['Y', 'R', 'B', 'G']]

def E217 : List Code := [['R', 'Y', 'B', 'O'], ['R', 'Y', 'G', 'B'], ['Y', 'R', 'B', 'O'], ['Y', 'R', 'G', 'B']]

def E218 : List Code := [['R', 'Y', 'B', 'P'], ['Y', 'B', 'R', 'P']]

def E224 : List Code := [['R', 'Y', 'O', 'P'], ['Y', 'O', 'P', 'R']]

def E226 : List Code := [['R', 'Y', 'P', 'G'], ['Y', 'R', 'G', 'P']]

def E229 : List Code := [['R', 'P', 'B', 'O'], ['R', 'P', 'G', 'B'], ['P', 'R', 'B', 'O'], ['P', 'R', 'G', 'B']]

def E232 : List Code := [['R', 'P', 'G', 'O'], ['P', 'R', 'G', 'O']]

def E233 : List Code := [['R', 'P', 'G', 'Y'], ['R', 'P', 'Y', 'G'], ['Y', 'R', 'P', 'G'], ['P', 'R', 'G', 'Y'], ['P', 'R', 'Y', 'G']]

def E237 : List Code := [['R', 'P', 'Y', 'B'], ['Y', 'R', 'P', 'B'], ['P', 'R', 'B', 'Y']]

def E238 : List Code := [['R', 'P', 'Y', 'G'], ['P', 'R', 'G', 'Y']]

def E239 : List Code := [['R', 'P', 'Y', 'O'], ['Y', 'R', 'P', 'O'], ['P', 'B', 'Y', 'G']]

def E250 : List Code := [['Y', 'B', 'P', 'R'], ['P', 'Y', 'B', 'R']]

def E253 : List Code := [['Y', 'G', 'B', 'P'], ['P', 'G', 'Y', 'B']]

def E258 : List Code := [['Y', 'G', 'R', 'O'], ['Y', 'O', 'G', 'R']]

def E263 : List Code := [['Y', 'O', 'B', 'G'], ['Y', 'O', 'G', 'B']]

def E268 : List Code := [['Y', 'O', 'G', 'P'], ['Y', 'R', 'B', 'P'], ['Y', 'P', 'R', 'B'], ['P', 'Y', 'G', 'O']]

def E272 : List Code := [['Y', 'O', 'P', 'B'], ['P', 'B', 'Y', 'O']]

def E285 : List Code := [['Y', 'R', 'P', 'G'], ['P', 'R', 'Y', 'G']]

def E287 : List Code := [['Y', 'P', 'B', 'G'], ['Y', 'P', 'G', 'B'], ['P', 'R', 'Y', 'O']]

def E288 : List Code := [['Y', 'P', 'B', 'O'], ['P', 'O', 'Y', 'B']]

def E293 : List Code := [['Y', 'P', 'O', 'B'], ['P', 'B', 'O', 'Y'], ['P', 'Y', 'O', 'B']]

def E295 : List Code := [['Y', 'P', 'O', 'R'], ['P', 'Y', 'O', 'R']]

def E310 : List Code := [['P', 'B', 'Y', 'R'], ['P', 'G', 'Y', 'O']]

def E347 : List Code := [['P', 'Y', 'B', 'G'], ['P', 'Y', 'G', 'B']]

lemma nx0 : findNextGuess E0 [['B', 'G', 'O', 'R']] = ['B', 'G', 'O', 'Y'] :=
  findNextGuess_node _ _ _ rfl rfl (by decide) (by decide) rfl

lemma nx2 : findNextGuess E2 [['B', 'G', 'O', 'R']] = ['B', 'G', 'R', 'O'] :=
  findNextGuess_node _ _ _ rfl rfl (by decide) (by decide) rfl

lemma nx3 : findNextGuess E3 [['B', 'G', 'O', 'R']] = ['B', 'G', 'R', 'Y'] :=
  findNextGuess_node _ _ _ rfl rfl (by decide) (by decide) rfl

lemma nx5 : findNextGuess E5 [['B', 'G', 'O', 'R'], ['B', 'G', 'R', 'Y']] = ['B', 'R', 'O', 'Y'] :=
  findNextGuess_node _ _ _ rfl rfl (by decide) (by decide) rfl

lemma nx7 : findNextGuess E7 [['B', 'G', 'O', 'R'], ['B', 'G', 'O', 'Y']] = ['B', 'G', 'Y', 'R'] :=
  findNextGuess_node _ _ _ rfl rfl (by decide) (by decide) rfl

lemma nx8 : findNextGuess E8 [['B', 'G', 'O', 'R']] = ['B', 'G', 'Y', 'P'] :=
  findNextGuess_node _ _ _ rfl rfl (by decide) (by decide) rfl

lemma nx10 : findNextGuess E10 [['B', 'G', 'O', 'R'], ['B', 'G', 'O', 'Y']] = ['B', 'G', 'P', 'R'] :=
  findNextGuess_node _ _ _ rfl rfl (by decide) (by decide) rfl

lemma nx12 : findNextGuess E12 [['B', 'G', 'O', 'R'], ['B', 'G', 'R', 'O']] = ['B', 'O', 'G', 'R'] :=
  findNextGuess_node _ _ _ rfl rfl (by decide) (by decide) rfl

lemma nx13 : findNextGuess E13 [['B', 'G', 'O', 'R']] = ['B', 'O', 'R', 'Y'] :=
  findNextGuess_node _ _ _ rfl rfl (by decide) (by decide) rfl

lemma nx14 : findNextGuess E14 [['B', 'G', 'O', 'R'], ['B', 'O', 'R', 'Y']] = ['B', 'O', 'G', 'Y'] :=
  findNextGuess_node _ _ _ rfl rfl (by decide) (by decide) rfl

lemma nx15 : findNextGuess E15 [['B', 'G', 'O', 'R'], ['B', 'O', 'R', 'Y']] = ['B', 'O', 'G', 'P'] :=
  findNextGuess_node _ _ _ rfl rfl (by decide) (by decide) rfl

lemma nx16 : findNextGuess E16 [['B', 'G', 'O', 'R']] = ['B', 'O', 'R', 'G'] :=
  findNextGuess_node _ _ _ rfl rfl (by decide) (by decide) rfl

lemma nx18 : findNextGuess E18 [['B', 'G', 'O', 'R'], ['B', 'O', 'R', 'Y']] = ['B', 'O', 'Y', 'G'] :=
  findNextGuess_node _ _ _ rfl rfl (by decide) (by decide) rfl

lemma nx19 : findNextGuess E19 [['B', 'G', 'O', 'R'], ['B', 'G', 'R', 'Y']] = ['B', 'O', 'Y', 'R'] :=
  findNextGuess_node _ _ _ rfl rfl (by decide) (by decide) rfl

lemma nx20 : findNextGuess E20 [['B', 'G', 'O', 'R']] = ['B', 'O', 'Y', 'P'] :=
  findNextGuess_node _ _ _ rfl rfl (by decide) (by decide) rfl

lemma nx22 : findNextGuess E22 [['B', 'G', 'O', 'R'], ['B', 'G', 'R', 'Y']] = ['B', 'O', 'P', 'R'] :=
  findNextGuess_node _ _ _ rfl rfl (by decide) (by decide) rfl

lemma nx23 : findNextGuess E23 [['B', 'G', 'O', 'R'], ['B', 'O', 'Y', 'P']] = ['B', 'O', 'P', 'Y'] :=
  findNextGuess_node _ _ _ rfl rfl (by decide) (by decide) rfl

lemma nx24 : findNextGuess E24 [['B', 'G', 'O', 'R'], ['B', 'O', 'R', 'G']] = ['B', 'R', 'G', 'O'] :=
  findNextGuess_node _ _ _ rfl rfl (by decide) (by decide) rfl

lemma nx26 : findNextGuess E26 [['B', 'G', 'O', 'R'], ['B', 'O', 'R', 'Y']] = ['B', 'R', 'G', 'P'] :=
  findNextGuess_node _ _ _ rfl rfl (by decide) (by decide) rfl

lemma nx27 : findNextGuess E27 [['B', 'G', 'O', 'R'], ['B', 'G', 'R', 'O'], ['B', 'O', 'G', 'R']] = ['B', 'R', 'O', 'G'] :=
  findNextGuess_node _ _ _ rfl rfl (by decide) (by decide) rfl

lemma nx29 : findNextGuess E29 [['B', 'G', 'O', 'R'], ['B', 'O', 'R', 'Y']] = ['G', 'R', 'O', 'Y'] :=
  findNextGuess_node _ _ _ rfl rfl (by decide) (by decide) rfl

lemma nx30 : findNextGuess E30 [['B', 'G', 'O', 'R'], ['B', 'O', 'R', 'Y'], ['G', 'R', 'O', 'Y']] = ['B', 'R', 'Y', 'G'] :=
  findNextGuess_node _ _ _ rfl rfl (by decide) (by decide) rfl

lemma nx31 : findNextGuess E31 [['B', 'G', 'O', 'R'], ['B', 'O', 'R', 'Y']] = ['B', 'R', 'Y', 'O'] :=
  findNextGuess_node _ _ _ rfl rfl (by decide) (by decide) rfl

lemma nx35 : findNextGuess E35 [['B', 'G', 'O', 'R'], ['B', 'O', 'Y', 'P']] = ['B', 'Y', 'P', 'G'] :=
  findNextGuess_node _ _ _ rfl rfl (by decide) (by decide) rfl

lemma nx37 : findNextGuess E37 [['B', 'G', 'O', 'R'], ['B', 'O', 'R', 'Y'], ['G', 'R', 'O', 'Y']] = ['B', 'Y', 'G', 'O'] :=
  findNextGuess_node _ _ _ rfl rfl (by decide) (by decide) rfl

lemma nx38 : findNextGuess E38 [['B', 'G', 'O', 'R'], ['B', 'G', 'R', 'Y']] = ['B', 'Y', 'G', 'R'] :=
  findNextGuess_node _ _ _ rfl rfl (by decide) (by decide) rfl

lemma nx39 : findNextGuess E39 [['B', 'G', 'O', 'R'], ['B', 'O', 'Y', 'P']] = ['B', 'Y', 'G', 'P'] :=
  findNextGuess_node _ _ _ rfl rfl (by decide) (by decide) rfl

lemma nx41 : findNextGuess E41 [['B', 'G', 'O', 'R'], ['B', 'G', 'O', 'Y'], ['B', 'G', 'Y', 'R']] = ['B', 'Y', 'O', 'R'] :=
  findNextGuess_node _ _ _ rfl rfl (by decide) (by decide) rfl

lemma nx42 : findNextGuess E42 [['B', 'G', 'O', 'R'], ['B', 'G', 'Y', 'P']] = ['B', 'Y', 'O', 'P'] :=
  findNextGuess_node _ _ _ rfl rfl (by decide) (by decide) rfl

lemma nx46 : findNextGuess E46 [['B', 'G', 'O', 'R'], ['B', 'O', 'Y', 'P']] = ['B', 'Y', 'P', 'O'] :=
  findNextGuess_node _ _ _ rfl rfl (by decide) (by decide) rfl

lemma nx47 : findNextGuess E47 [['B', 'G', 'O', 'R'], ['B', 'G', 'Y', 'P']] = ['B', 'Y', 'P', 'R'] :=
  findNextGuess_node _ _ _ rfl rfl (by decide) (by decide) rfl

lemma nx52 : findNextGuess E52 [['B', 'G', 'O', 'R'], ['B', 'G', 'O', 'Y'], ['B', 'G', 'P', 'R']] = ['B', 'P', 'O', 'R'] :=
  findNextGuess_node _ _ _ rfl rfl (by decide) (by decide) rfl

lemma nx56 : findNextGuess E56 [['B', 'G', 'O', 'R'], ['B', 'O', 'Y', 'P'], ['B', 'Y', 'P', 'G']] = ['B', 'P', 'R', 'Y'] :=
  findNextGuess_node _ _ _ rfl rfl (by decide) (by decide) rfl

lemma nx62 : findNextGuess E62 [['B', 'G', 'O', 'R'], ['B', 'O', 'R', 'Y']] = ['G', 'P', 'O', 'B'] :=
  findNextGuess_node _ _ _ rfl rfl (by decide) (by decide) rfl

lemma nx64 : findNextGuess E64 [['B', 'G', 'O', 'R']] = ['G', 'B', 'R', 'O'] :=
  findNextGuess_node _ _ _ rfl rfl (by decide) (by decide) rfl

lemma nx65 : findNextGuess E65 [['B', 'G', 'O', 'R']] = ['G', 'O', 'R', 'Y'] :=
  findNextGuess_node _ _ _ rfl rfl (by decide) (by decide) rfl

lemma nx66 : findNextGuess E66 [['B', 'G', 'O', 'R'], ['G', 'O', 'R', 'Y']] = ['G', 'B', 'R', 'Y'] :=
  findNextGuess_node _ _ _ rfl rfl (by decide) (by decide) rfl

lemma nx67 : findNextGuess E67 [['B', 'G', 'O', 'R'], ['G', 'O', 'R', 'Y']] = ['G', 'B', 'R', 'P'] :=
  findNextGuess_node _ _ _ rfl rfl (by decide) (by decide) rfl

lemma nx68 : findNextGuess E68 [['B', 'G', 'O', 'R'], ['G', 'O', 'R', 'Y']] = ['G', 'B', 'Y', 'O'] :=
  findNextGuess_node _ _ _ rfl rfl (by decide) (by decide) rfl

lemma nx69 : findNextGuess E69 [['B', 'G', 'O', 'R'], ['B', 'O', 'R', 'Y']] = ['O', 'Y', 'G', 'R'] :=
  findNextGuess_node _ _ _ rfl rfl (by decide) (by decide) rfl

lemma nx70 : findNextGuess E70 [['B', 'G', 'O', 'R'], ['B', 'O', 'R', 'Y'], ['O', 'Y', 'G', 'R']] = ['G', 'Y', 'O', 'B'] :=
  findNextGuess_node _ _ _ rfl rfl (by decide) (by decide) rfl

lemma nx72 : findNextGuess E72 [['B', 'G', 'O', 'R']] = ['G', 'Y', 'R', 'P'] :=
  findNextGuess_node _ _ _ rfl rfl (by decide) (by decide) rfl

lemma nx73 : findNextGuess E73 [['B', 'G', 'O', 'R'], ['G', 'Y', 'R', 'P']] = ['G', 'O', 'Y', 'P'] :=
  findNextGuess_node _ _ _ rfl rfl (by decide) (by decide) rfl

lemma nx75 : findNextGuess E75 [['B', 'G', 'O', 'R'], ['G', 'O', 'R', 'Y']] = ['R', 'O', 'B', 'P'] :=
  findNextGuess_node _ _ _ rfl rfl (by decide) (by decide) rfl

lemma nx76 : findNextGuess E76 [['B', 'G', 'O', 'R'], ['G', 'O', 'R', 'Y'], ['R', 'O', 'B', 'P']] = ['G', 'B', 'P', 'O'] :=
  findNextGuess_node _ _ _ rfl rfl (by decide) (by decide) rfl

lemma nx77 : findNextGuess E77 [['B', 'G', 'O', 'R'], ['B', 'O', 'R', 'Y'], ['G', 'P', 'O', 'B']] = ['G', 'B', 'P', 'R'] :=
  findNextGuess_node _ _ _ rfl rfl (by decide) (by decide) rfl

lemma nx78 : findNextGuess E78 [['B', 'G', 'O', 'R'], ['G', 'Y', 'R', 'P']] = ['G', 'B', 'P', 'Y'] :=
  findNextGuess_node _ _ _ rfl rfl (by decide) (by decide) rfl

lemma nx79 : findNextGuess E79 [['B', 'G', 'O', 'R'], ['B', 'O', 'R', 'G'], ['B', 'R', 'G', 'O']] = ['G', 'O', 'B', 'R'] :=
  findNextGuess_node _ _ _ rfl rfl (by decide) (by decide) rfl

lemma nx82 : findNextGuess E82 [['B', 'G', 'O', 'R'], ['G', 'B', 'R', 'O']] = ['G', 'O', 'R', 'B'] :=
  findNextGuess_node _ _ _ rfl rfl (by decide) (by decide) rfl

lemma nx84 : findNextGuess E84 [['B', 'G', 'O', 'R'], ['G', 'O', 'R', 'Y']] = ['G', 'O', 'Y', 'B'] :=
  findNextGuess_node _ _ _ rfl rfl (by decide) (by decide) rfl

lemma nx86 : findNextGuess E86 [['B', 'G', 'O', 'R'], ['G', 'O', 'R', 'Y'], ['G', 'B', 'R', 'P']] = ['G', 'O', 'P', 'B'] :=
  findNextGuess_node _ _ _ rfl rfl (by decide) (by decide) rfl

lemma nx87 : findNextGuess E87 [['B', 'G', 'O', 'R'], ['B', 'O', 'R', 'Y'], ['B', 'R', 'G', 'P']] = ['G', 'O', 'P', 'R'] :=
  findNextGuess_node _ _ _ rfl rfl (by decide) (by decide) rfl

lemma nx89 : findNextGuess E89 [['B', 'G', 'O', 'R'], ['G', 'B', 'R', 'O'], ['G', 'O', 'R', 'B']] = ['G', 'R', 'B', 'O'] :=
  findNextGuess_node _ _ _ rfl rfl (by decide) (by decide) rfl

lemma nx90 : findNextGuess E90 [['B', 'G', 'O', 'R'], ['G', 'O', 'R', 'Y'], ['G', 'O', 'Y', 'B']] = ['G', 'R', 'B', 'Y'] :=
  findNextGuess_node _ _ _ rfl rfl (by decide) (by decide) rfl

lemma nx91 : findNextGuess E91 [['B', 'G', 'O', 'R'], ['G', 'O', 'R', 'Y'], ['R', 'O', 'B', 'P']] = ['G', 'R', 'B', 'P'] :=
  findNextGuess_node _ _ _ rfl rfl (by decide) (by decide) rfl

lemma nx92 : findNextGuess E92 [['B', 'G', 'O', 'R'], ['B', 'O', 'R', 'G']] = ['G', 'R', 'O', 'B'] :=
  findNextGuess_node _ _ _ rfl rfl (by decide) (by decide) rfl

lemma nx93 : findNextGuess E93 [['B', 'G', 'O', 'R'], ['B', 'O', 'R', 'Y'], ['G', 'P', 'O', 'B']] = ['G', 'R', 'O', 'P'] :=
  findNextGuess_node _ _ _ rfl rfl (by decide) (by decide) rfl

lemma nx94 : findNextGuess E94 [['B', 'G', 'O', 'R'], ['G', 'O', 'R', 'Y'], ['G', 'B', 'Y', 'O']] = ['G', 'R', 'Y', 'B'] :=
  findNextGuess_node _ _ _ rfl rfl (by decide) (by decide) rfl

lemma nx95 : findNextGuess E95 [['B', 'G', 'O', 'R'], ['G', 'O', 'R', 'Y']] = ['G', 'R', 'Y', 'O'] :=
  findNextGuess_node _ _ _ rfl rfl (by decide) (by decide) rfl

lemma nx96 : findNextGuess E96 [['B', 'G', 'O', 'R'], ['G', 'Y', 'R', 'P']] = ['G', 'R', 'Y', 'P'] :=
  findNextGuess_node _ _ _ rfl rfl (by decide) (by decide) rfl

lemma nx99 : findNextGuess E99 [['B', 'G', 'O', 'R'], ['G', 'Y', 'R', 'P']] = ['G', 'R', 'P', 'Y'] :=
  findNextGuess_node _ _ _ rfl rfl (by decide) (by decide) rfl

lemma nx101 : findNextGuess E101 [['B', 'G', 'O', 'R'], ['B', 'O', 'R', 'Y'], ['O', 'Y', 'G', 'R']] = ['G', 'Y', 'B', 'R'] :=
  findNextGuess_node _ _ _ rfl rfl (by decide) (by decide) rfl

lemma nx102 : findNextGuess E102 [['B', 'G', 'O', 'R'], ['G', 'Y', 'R', 'P']] = ['G', 'Y', 'B', 'P'] :=
  findNextGuess_node _ _ _ rfl rfl (by decide) (by decide) rfl

lemma nx103 : findNextGuess E103 [['B', 'G', 'O', 'R'], ['B', 'G', 'R', 'Y']] = ['G', 'Y', 'O', 'R'] :=
  findNextGuess_node _ _ _ rfl rfl (by decide) (by decide) rfl

lemma nx105 : findNextGuess E105 [['B', 'G', 'O', 'R'], ['G', 'O', 'R', 'Y'], ['G', 'O', 'Y', 'B']] = ['G', 'Y', 'R', 'B'] :=
  findNextGuess_node _ _ _ rfl rfl (by decide) (by decide) rfl

lemma nx106 : findNextGuess E106 [['B', 'G', 'O', 'R'], ['G', 'O', 'R', 'Y']] = ['G', 'Y', 'R', 'O'] :=
  findNextGuess_node _ _ _ rfl rfl (by decide) (by decide) rfl

lemma nx108 : findNextGuess E108 [['B', 'G', 'O', 'R'], ['G', 'Y', 'R', 'P'], ['G', 'O', 'Y', 'P']] = ['G', 'Y', 'P', 'O'] :=
  findNextGuess_node _ _ _ rfl rfl (by decide) (by decide) rfl

lemma nx109 : findNextGuess E109 [['B', 'G', 'O', 'R'], ['B', 'O', 'Y', 'P']] = ['G', 'Y', 'P', 'R'] :=
  findNextGuess_node _ _ _ rfl rfl (by decide) (by decide) rfl

lemma nx110 : findNextGuess E110 [['B', 'G', 'O', 'R'], ['G', 'O', 'R', 'Y'], ['R', 'O', 'B', 'P']] = ['G', 'P', 'B', 'O'] :=
  findNextGuess_node _ _ _ rfl rfl (by decide) (by decide) rfl

lemma nx113 : findNextGuess E113 [['B', 'G', 'O', 'R'], ['B', 'G', 'R', 'Y']] = ['G', 'P', 'O', 'R'] :=
  findNextGuess_node _ _ _ rfl rfl (by decide) (by decide) rfl

lemma nx114 : findNextGuess E114 [['B', 'G', 'O', 'R'], ['B', 'O', 'Y', 'P']] = ['G', 'P', 'O', 'Y'] :=
  findNextGuess_node _ _ _ rfl rfl (by decide) (by decide) rfl

lemma nx116 : findNextGuess E116 [['B', 'G', 'O', 'R'], ['G', 'O', 'R', 'Y'], ['G', 'O', 'Y', 'B']] = ['G', 'P', 'R', 'O'] :=
  findNextGuess_node _ _ _ rfl rfl (by decide) (by decide) rfl

lemma nx117 : findNextGuess E117 [['B', 'G', 'O', 'R'], ['G', 'Y', 'R', 'P'], ['G', 'R', 'Y', 'P']] = ['G', 'P', 'R', 'Y'] :=
  findNextGuess_node _ _ _ rfl rfl (by decide) (by decide) rfl

lemma nx118 : findNextGuess E118 [['B', 'G', 'O', 'R'], ['G', 'Y', 'R', 'P'], ['G', 'B', 'P', 'Y']] = ['G', 'P', 'Y', 'B'] :=
  findNextGuess_node _ _ _ rfl rfl (by decide) (by decide) rfl

lemma nx119 : findNextGuess E119 [['B', 'G', 'O', 'R'], ['G', 'Y', 'R', 'P'], ['G', 'B', 'P', 'Y']] = ['G', 'P', 'Y', 'O'] :=
  findNextGuess_node _ _ _ rfl rfl (by decide) (by decide) rfl

lemma nx120 : findNextGuess E120 [['B', 'G', 'O', 'R'], ['B', 'O', 'Y', 'P']] = ['G', 'P', 'Y', 'R'] :=
  findNextGuess_node _ _ _ rfl rfl (by decide) (by decide) rfl

lemma nx121 : findNextGuess E121 [['B', 'G', 'O', 'R'], ['B', 'O', 'R', 'G'], ['G', 'R', 'O', 'B']] = ['O', 'B', 'G', 'R'] :=
  findNextGuess_node _ _ _ rfl rfl (by decide) (by decide) rfl

lemma nx123 : findNextGuess E123 [['B', 'G', 'O', 'R'], ['G', 'O', 'R', 'Y']] = ['O', 'B', 'P', 'G'] :=
  findNextGuess_node _ _ _ rfl rfl (by decide) (by decide) rfl

lemma nx124 : findNextGuess E124 [['B', 'G', 'O', 'R'], ['G', 'O', 'R', 'Y'], ['O', 'B', 'P', 'G']] = ['O', 'B', 'G', 'P'] :=
  findNextGuess_node _ _ _ rfl rfl (by decide) (by decide) rfl

lemma nx128 : findNextGuess E128 [['B', 'G', 'O', 'R'], ['G', 'O', 'R', 'Y']] = ['O', 'B', 'Y', 'G'] :=
  findNextGuess_node _ _ _ rfl rfl (by decide) (by decide) rfl

lemma nx129 : findNextGuess E129 [['B', 'G', 'O', 'R'], ['B', 'O', 'R', 'Y']] = ['O', 'Y', 'B', 'R'] :=
  findNextGuess_node _ _ _ rfl rfl (by decide) (by decide) rfl

lemma nx131 : findNextGuess E131 [['B', 'G', 'O', 'R'], ['G', 'Y', 'R', 'P']] = ['O', 'B', 'Y', 'P'] :=
  findNextGuess_node _ _ _ rfl rfl (by decide) (by decide) rfl

lemma nx132 : findNextGuess E132 [['B', 'G', 'O', 'R'], ['B', 'O', 'R', 'Y'], ['O', 'Y', 'G', 'R']] = ['O', 'B', 'P', 'R'] :=
  findNextGuess_node _ _ _ rfl rfl (by decide) (by decide) rfl

lemma nx133 : findNextGuess E133 [['B', 'G', 'O', 'R'], ['G', 'Y', 'R', 'P']] = ['O', 'B', 'P', 'Y'] :=
  findNextGuess_node _ _ _ rfl rfl (by decide) (by decide) rfl

lemma nx136 : findNextGuess E136 [['B', 'G', 'O', 'R'], ['B', 'O', 'R', 'Y'], ['G', 'P', 'O', 'B']] = ['O', 'G', 'B', 'P'] :=
  findNextGuess_node _ _ _ rfl rfl (by decide) (by decide) rfl

lemma nx137 : findNextGuess E137 [['B', 'G', 'O', 'R'], ['B', 'O', 'R', 'G'], ['B', 'R', 'G', 'O'], ['G', 'O', 'B', 'R']] = ['O', 'G', 'R', 'B'] :=
  findNextGuess_node _ _ _ rfl rfl (by decide) (by decide) rfl

lemma nx139 : findNextGuess E139 [['B', 'G', 'O', 'R'], ['B', 'O', 'R', 'Y'], ['B', 'R', 'G', 'P']] = ['O', 'G', 'R', 'P'] :=
  findNextGuess_node _ _ _ rfl rfl (by decide) (by decide) rfl

lemma nx143 : findNextGuess E143 [['B', 'G', 'O', 'R'], ['B', 'O', 'R', 'Y'], ['G', 'P', 'O', 'B']] = ['O', 'G', 'P', 'B'] :=
  findNextGuess_node _ _ _ rfl rfl (by decide) (by decide) rfl

lemma nx145 : findNextGuess E145 [['B', 'G', 'O', 'R'], ['B', 'O', 'Y', 'P'], ['G', 'P', 'O', 'Y']] = ['O', 'G', 'P', 'Y'] :=
  findNextGuess_node _ _ _ rfl rfl (by decide) (by decide) rfl

lemma nx146 : findNextGuess E146 [['B', 'G', 'O', 'R'], ['G', 'B', 'R', 'O']] = ['O', 'R', 'B', 'G'] :=
  findNextGuess_node _ _ _ rfl rfl (by decide) (by decide) rfl

lemma nx147 : findNextGuess E147 [['B', 'G', 'O', 'R'], ['G', 'O', 'R', 'Y'], ['G', 'B', 'Y', 'O']] = ['O', 'R', 'B', 'Y'] :=
  findNextGuess_node _ _ _ rfl rfl (by decide) (by decide) rfl

lemma nx148 : findNextGuess E148 [['B', 'G', 'O', 'R'], ['G', 'O', 'R', 'Y'], ['O', 'B', 'P', 'G']] = ['R', 'B', 'G', 'P'] :=
  findNextGuess_node _ _ _ rfl rfl (by decide) (by decide) rfl

lemma nx150 : findNextGuess E150 [['B', 'G', 'O', 'R'], ['G', 'B', 'R', 'O'], ['O', 'R', 'B', 'G']] = ['O', 'R', 'G', 'B'] :=
  findNextGuess_node _ _ _ rfl rfl (by decide) (by decide) rfl

lemma nx151 : findNextGuess E151 [['B', 'G', 'O', 'R'], ['G', 'O', 'R', 'Y'], ['G', 'R', 'Y', 'O']] = ['O', 'R', 'G', 'Y'] :=
  findNextGuess_node _ _ _ rfl rfl (by decide) (by decide) rfl

lemma nx153 : findNextGuess E153 [['B', 'G', 'O', 'R'], ['G', 'O', 'R', 'Y'], ['O', 'B', 'Y', 'G']] = ['O', 'R', 'Y', 'B'] :=
  findNextGuess_node _ _ _ rfl rfl (by decide) (by decide) rfl

lemma nx154 : findNextGuess E154 [['B', 'G', 'O', 'R'], ['G', 'O', 'R', 'Y']] = ['O', 'R', 'Y', 'G'] :=
  findNextGuess_node _ _ _ rfl rfl (by decide) (by decide) rfl

lemma nx155 : findNextGuess E155 [['B', 'G', 'O', 'R'], ['G', 'Y', 'R', 'P'], ['G', 'B', 'P', 'Y']] = ['O', 'R', 'Y', 'P'] :=
  findNextGuess_node _ _ _ rfl rfl (by decide) (by decide) rfl

lemma nx156 : findNextGuess E156 [['B', 'G', 'O', 'R'], ['G', 'O', 'R', 'Y'], ['O', 'B', 'P', 'G']] = ['O', 'R', 'P', 'B'] :=
  findNextGuess_node _ _ _ rfl rfl (by decide) (by decide) rfl

lemma nx158 : findNextGuess E158 [['B', 'G', 'O', 'R'], ['G', 'Y', 'R', 'P']] = ['R', 'B', 'P', 'Y'] :=
  findNextGuess_node _ _ _ rfl rfl (by decide) (by decide) rfl

lemma nx159 : findNextGuess E159 [['B', 'G', 'O', 'R'], ['G', 'Y', 'R', 'P'], ['R', 'B', 'P', 'Y']] = ['Y', 'B', 'P', 'G'] :=
  findNextGuess_node _ _ _ rfl rfl (by decide) (by decide) rfl

lemma nx163 : findNextGuess E163 [['B', 'G', 'O', 'R'], ['G', 'O', 'R', 'Y'], ['O', 'B', 'Y', 'G']] = ['O', 'Y', 'G', 'B'] :=
  findNextGuess_node _ _ _ rfl rfl (by decide) (by decide) rfl

lemma nx168 : findNextGuess E168 [['B', 'G', 'O', 'R'], ['G', 'Y', 'R', 'P'], ['O', 'B', 'Y', 'P']] = ['O', 'Y', 'P', 'B'] :=
  findNextGuess_node _ _ _ rfl rfl (by decide) (by decide) rfl

lemma nx170 : findNextGuess E170 [['B', 'G', 'O', 'R'], ['B', 'O', 'Y', 'P'], ['G', 'P', 'O', 'Y']] = ['O', 'Y', 'P', 'R'] :=
  findNextGuess_node _ _ _ rfl rfl (by decide) (by decide) rfl

lemma nx173 : findNextGuess E173 [['B', 'G', 'O', 'R'], ['G', 'Y', 'R', 'P'], ['O', 'B', 'P', 'Y']] = ['O', 'P', 'B', 'Y'] :=
  findNextGuess_node _ _ _ rfl rfl (by decide) (by decide) rfl

lemma nx174 : findNextGuess E174 [['B', 'G', 'O', 'R'], ['G', 'O', 'R', 'Y'], ['O', 'B', 'P', 'G']] = ['O', 'P', 'G', 'B'] :=
  findNextGuess_node _ _ _ rfl rfl (by decide) (by decide) rfl

lemma nx176 : findNextGuess E176 [['B', 'G', 'O', 'R'], ['G', 'Y', 'R', 'P'], ['R', 'B', 'P', 'Y']] = ['O', 'P', 'G', 'Y'] :=
  findNextGuess_node _ _ _ rfl rfl (by decide) (by decide) rfl

lemma nx177 : findNextGuess E177 [['B', 'G', 'O', 'R'], ['G', 'O', 'R', 'Y'], ['R', 'O', 'B', 'P']] = ['O', 'P', 'R', 'B'] :=
  findNextGuess_node _ _ _ rfl rfl (by decide) (by decide) rfl

lemma nx178 : findNextGuess E178 [['B', 'G', 'O', 'R'], ['G', 'O', 'R', 'Y'], ['G', 'B', 'Y', 'O']] = ['O', 'P', 'R', 'G'] :=
  findNextGuess_node _ _ _ rfl rfl (by decide) (by decide) rfl

lemma nx179 : findNextGuess E179 [['B', 'G', 'O', 'R'], ['G', 'Y', 'R', 'P'], ['G', 'B', 'P', 'Y']] = ['O', 'P', 'R', 'Y'] :=
  findNextGuess_node _ _ _ rfl rfl (by decide) (by decide) rfl

lemma nx180 : findNextGuess E180 [['B', 'G', 'O', 'R'], ['G', 'Y', 'R', 'P'], ['O', 'B', 'P', 'Y']] = ['O', 'P', 'Y', 'B'] :=
  findNextGuess_node _ _ _ rfl rfl (by decide) (by decide) rfl

lemma nx181 : findNextGuess E181 [['B', 'G', 'O', 'R'], ['G', 'Y', 'R', 'P'], ['R', 'B', 'P', 'Y']] = ['O', 'P', 'Y', 'G'] :=
  findNextGuess_node _ _ _ rfl rfl (by decide) (by decide) rfl

lemma nx182 : findNextGuess E182 [['B', 'G', 'O', 'R'], ['B', 'O', 'Y', 'P'], ['B', 'Y', 'P', 'G']] = ['O', 'P', 'Y', 'R'] :=
  findNextGuess_node _ _ _ rfl rfl (by decide) (by decide) rfl

lemma nx184 : findNextGuess E184 [['B', 'G', 'O', 'R'], ['G', 'O', 'R', 'Y'], ['G', 'B', 'Y', 'O']] = ['R', 'B', 'G', 'Y'] :=
  findNextGuess_node _ _ _ rfl rfl (by decide) (by decide) rfl

lemma nx186 : findNextGuess E186 [['B', 'G', 'O', 'R'], ['B', 'O', 'R', 'Y'], ['B', 'R', 'Y', 'O']] = ['R', 'B', 'O', 'Y'] :=
  findNextGuess_node _ _ _ rfl rfl (by decide) (by decide) rfl

lemma nx187 : findNextGuess E187 [['B', 'G', 'O', 'R'], ['B', 'O', 'R', 'Y'], ['O', 'Y', 'G', 'R']] = ['R', 'B', 'O', 'P'] :=
  findNextGuess_node _ _ _ rfl rfl (by decide) (by decide) rfl

lemma nx195 : findNextGuess E195 [['B', 'G', 'O', 'R'], ['B', 'O', 'R', 'Y'], ['G', 'P', 'O', 'B']] = ['R', 'G', 'B', 'P'] :=
  findNextGuess_node _ _ _ rfl rfl (by decide) (by decide) rfl

lemma nx198 : findNextGuess E198 [['B', 'G', 'O', 'R'], ['B', 'G', 'R', 'Y'], ['B', 'O', 'P', 'R']] = ['R', 'G', 'O', 'P'] :=
  findNextGuess_node _ _ _ rfl rfl (by decide) (by decide) rfl

lemma nx199 : findNextGuess E199 [['B', 'G', 'O', 'R'], ['B', 'O', 'R', 'Y'], ['O', 'Y', 'G', 'R']] = ['R', 'G', 'Y', 'B'] :=
  findNextGuess_node _ _ _ rfl rfl (by decide) (by decide) rfl

lemma nx200 : findNextGuess E200 [['B', 'G', 'O', 'R'], ['B', 'O', 'R', 'Y'], ['O', 'Y', 'G', 'R']] = ['R', 'G', 'Y', 'O'] :=
  findNextGuess_node _ _ _ rfl rfl (by decide) (by decide) rfl

lemma nx204 : findNextGuess E204 [['B', 'G', 'O', 'R'], ['B', 'O', 'Y', 'P'], ['G', 'Y', 'P', 'R']] = ['R', 'G', 'P', 'Y'] :=
  findNextGuess_node _ _ _ rfl rfl (by decide) (by decide) rfl

lemma nx216 : findNextGuess E216 [['B', 'G', 'O', 'R'], ['G', 'O', 'R', 'Y'], ['O', 'B', 'Y', 'G']] = ['R', 'Y', 'B', 'G'] :=
  findNextGuess_node _ _ _ rfl rfl (by decide) (by decide) rfl

lemma nx217 : findNextGuess E217 [['B', 'G', 'O', 'R'], ['G', 'O', 'R', 'Y'], ['O', 'B', 'Y', 'G']] = ['R', 'Y', 'B', 'O'] :=
  findNextGuess_node _ _ _ rfl rfl (by decide) (by decide) rfl

lemma nx218 : findNextGuess E218 [['B', 'G', 'O', 'R'], ['G', 'Y', 'R', 'P'], ['G', 'O', 'Y', 'P']] = ['R', 'Y', 'B', 'P'] :=
  findNextGuess_node _ _ _ rfl rfl (by decide) (by decide) rfl

lemma nx224 : findNextGuess E224 [['B', 'G', 'O', 'R'], ['B', 'O', 'Y', 'P'], ['B', 'Y', 'P', 'G']] = ['R', 'Y', 'O', 'P'] :=
  findNextGuess_node _ _ _ rfl rfl (by decide) (by decide) rfl

lemma nx226 : findNextGuess E226 [['B', 'G', 'O', 'R'], ['G', 'Y', 'R', 'P'], ['G', 'R', 'P', 'Y']] = ['R', 'Y', 'P', 'G'] :=
  findNextGuess_node _ _ _ rfl rfl (by decide) (by decide) rfl

lemma nx229 : findNextGuess E229 [['B', 'G', 'O', 'R'], ['G', 'O', 'R', 'Y'], ['O', 'B', 'P', 'G']] = ['R', 'P', 'B', 'O'] :=
  findNextGuess_node _ _ _ rfl rfl (by decide) (by decide) rfl

lemma nx232 : findNextGuess E232 [['B', 'G', 'O', 'R'], ['G', 'O', 'R', 'Y'], ['O', 'B', 'Y', 'G']] = ['R', 'P', 'G', 'O'] :=
  findNextGuess_node _ _ _ rfl rfl (by decide) (by decide) rfl

lemma nx233 : findNextGuess E233 [['B', 'G', 'O', 'R'], ['G', 'Y', 'R', 'P']] = ['R', 'P', 'G', 'Y'] :=
  findNextGuess_node _ _ _ rfl rfl (by decide) (by decide) rfl

lemma nx237 : findNextGuess E237 [['B', 'G', 'O', 'R'], ['G', 'Y', 'R', 'P'], ['R', 'B', 'P', 'Y']] = ['R', 'P', 'Y', 'B'] :=
  findNextGuess_node _ _ _ rfl rfl (by decide) (by decide) rfl

lemma nx238 : findNextGuess E238 [['B', 'G', 'O', 'R'], ['G', 'Y', 'R', 'P'], ['R', 'P', 'G', 'Y']] = ['R', 'P', 'Y', 'G'] :=
  findNextGuess_node _ _ _ rfl rfl (by decide) (by decide) rfl

lemma nx239 : findNextGuess E239 [['B', 'G', 'O', 'R'], ['G', 'Y', 'R', 'P'], ['R', 'B', 'P', 'Y']] = ['R', 'P', 'Y', 'O'] :=
  findNextGuess_node _ _ _ rfl rfl (by decide) (by decide) rfl

lemma nx250 : findNextGuess E250 [['B', 'G', 'O', 'R'], ['B', 'O', 'Y', 'P'], ['G', 'P', 'O', 'Y']] = ['Y', 'B', 'P', 'R'] :=
  findNextGuess_node _ _ _ rfl rfl (by decide) (by decide) rfl

lemma nx253 : findNextGuess E253 [['B', 'G', 'O', 'R'], ['B', 'O', 'Y', 'P'], ['B', 'Y', 'P', 'G']] = ['Y', 'G', 'B', 'P'] :=
  findNextGuess_node _ _ _ rfl rfl (by decide) (by decide) rfl

lemma nx258 : findNextGuess E258 [['B', 'G', 'O', 'R'], ['B', 'O', 'R', 'Y'], ['G', 'R', 'O', 'Y']] = ['Y', 'G', 'R', 'O'] :=
  findNextGuess_node _ _ _ rfl rfl (by decide) (by decide) rfl

lemma nx263 : findNextGuess E263 [['B', 'G', 'O', 'R'], ['G', 'O', 'R', 'Y'], ['G', 'B', 'Y', 'O']] = ['Y', 'O', 'B', 'G'] :=
  findNextGuess_node _ _ _ rfl rfl (by decide) (by decide) rfl

lemma nx268 : findNextGuess E268 [['B', 'G', 'O', 'R'], ['G', 'Y', 'R', 'P'], ['G', 'B', 'P', 'Y']] = ['Y', 'O', 'G', 'P'] :=
  findNextGuess_node _ _ _ rfl rfl (by decide) (by decide) rfl

lemma nx272 : findNextGuess E272 [['B', 'G', 'O', 'R'], ['G', 'Y', 'R', 'P'], ['O', 'B', 'P', 'Y'], ['O', 'P', 'Y', 'B']] = ['Y', 'O', 'P', 'B'] :=
  findNextGuess_node _ _ _ rfl rfl (by decide) (by decide) rfl

lemma nx285 : findNextGuess E285 [['B', 'G', 'O', 'R'], ['G', 'Y', 'R', 'P'], ['R', 'P', 'G', 'Y']] = ['Y', 'R', 'P', 'G'] :=
  findNextGuess_node _ _ _ rfl rfl (by decide) (by decide) rfl

lemma nx287 : findNextGuess E287 [['B', 'G', 'O', 'R'], ['G', 'Y', 'R', 'P'], ['R', 'B', 'P', 'Y']] = ['Y', 'P', 'B', 'G'] :=
  findNextGuess_node _ _ _ rfl rfl (by decide) (by decide) rfl

lemma nx288 : findNextGuess E288 [['B', 'G', 'O', 'R'], ['G', 'Y', 'R', 'P'], ['O', 'B', 'P', 'Y']] = ['Y', 'P', 'B', 'O'] :=
  findNextGuess_node _ _ _ rfl rfl (by decide) (by decide) rfl

lemma nx293 : findNextGuess E293 [['B', 'G', 'O', 'R'], ['B', 'O', 'Y', 'P']] = ['Y', 'P', 'O', 'B'] :=
  findNextGuess_node _ _ _ rfl rfl (by decide) (by decide) rfl

lemma nx295 : findNextGuess E295 [['B', 'G', 'O', 'R'], ['B', 'G', 'Y', 'P']] = ['Y', 'P', 'O', 'R'] :=
  findNextGuess_node _ _ _ rfl rfl (by decide) (by decide) rfl

lemma nx310 : findNextGuess E310 [['B', 'G', 'O', 'R'], ['B', 'O', 'Y', 'P'], ['B', 'Y', 'P', 'G']] = ['P', 'B', 'Y', 'R'] :=
  findNextGuess_node _ _ _ rfl rfl (by decide) (by decide) rfl

lemma nx347 : findNextGuess E347 [['B', 'G', 'O', 'R'], ['G', 'Y', 'R', 'P'], ['G', 'B', 'P', 'Y']] = ['P', 'Y', 'B', 'G'] :=
  findNextGuess_node _ _ _ rfl rfl (by decide) (by decide) rfl

lemma pe0 : parePossibilities S0 ['B', 'G', 'O', 'R'] (⟨((0 : Nat) : Int), ((3 : Nat) : Int)⟩ : Score) = E0 :=
  pare_node _ _ 0 3 _ S0_wf (by decide) (by decide) rfl

lemma pe1 : parePossibilities E0 ['B', 'G', 'O', 'Y'] (⟨((0 : Nat) : Int), ((3 : Nat) : Int)⟩ : Score) = [['B', 'G', 'O', 'P']] :=
  pare_node _ _ 0 3 _ rfl (by decide) (by decide) rfl

lemma pe2 : parePossibilities S0 ['B', 'G', 'O', 'R'] (⟨((2 : Nat) : Int), ((2 : Nat) : Int)⟩ : Score) = E2 :=
  pare_node _ _ 2 2 _ S0_wf (by decide) (by decide) rfl

lemma pe3 : parePossibilities S0 ['B', 'G', 'O', 'R'] (⟨((1 : Nat) : Int), ((2 : Nat) : Int)⟩ : Score) = E3 :=
  pare_node _ _ 1 2 _ S0_wf (by decide) (by decide) rfl

lemma pe4 : parePossibilities E3 ['B', 'G', 'R', 'Y'] (⟨((0 : Nat) : Int), ((3 : Nat) : Int)⟩ : Score) = [['B', 'G', 'R', 'P']] :=
  pare_node _ _ 0 3 _ rfl (by decide) (by decide) rfl

lemma pe5 : parePossibilities E3 ['B', 'G', 'R', 'Y'] (⟨((1 : Nat) : Int), ((2 : Nat) : Int)⟩ : Score) = E5 :=
  pare_node _ _ 1 2 _ rfl (by decide) (by decide) rfl

lemma pe6 : parePossibilities E5 ['B', 'R', 'O', 'Y'] (⟨((2 : Nat) : Int), ((1 : Nat) : Int)⟩ : Score) = [['B', 'G', 'Y', 'O']] :=
  pare_node _ _ 2 1 _ rfl (by decide) (by decide) rfl

lemma pe7 : parePossibilities E0 ['B', 'G', 'O', 'Y'] (⟨((1 : Nat) : Int), ((2 : Nat) : Int)⟩ : Score) = E7 :=
  pare_node _ _ 1 2 _ rfl (by decide) (by decide) rfl

lemma pe8 : parePossibilities S0 ['B', 'G', 'O', 'R'] (⟨((0 : Nat) : Int), ((2 : Nat) : Int)⟩ : Score) = E8 :=
  pare_node _ _ 0 2 _ S0_wf (by decide) (by decide) rfl

lemma pe9 : parePossibilities E3 ['B', 'G', 'R', 'Y'] (⟨((0 : Nat) : Int), ((2 : Nat) : Int)⟩ : Score) = [['B', 'G', 'P', 'O']] :=
  pare_node _ _ 0 2 _ rfl (by decide) (by decide) rfl

lemma pe10 : parePossibilities E0 ['B', 'G', 'O', 'Y'] (⟨((0 : Nat) : Int), ((2 : Nat) : Int)⟩ : Score) = E10 :=
  pare_node _ _ 0 2 _ rfl (by decide) (by decide) rfl

lemma pe11 : parePossibilities E8 ['B', 'G', 'Y', 'P'] (⟨((2 : Nat) : Int), ((2 : Nat) : Int)⟩ : Score) = [['B', 'G', 'P', 'Y']] :=
  pare_node _ _ 2 2 _ rfl (by decide) (by decide) rfl

lemma pe12 : parePossibilities E2 ['B', 'G', 'R', 'O'] (⟨((3 : Nat) : Int), ((1 : Nat) : Int)⟩ : Score) = E12 :=
  pare_node _ _ 3 1 _ rfl (by decide) (by decide) rfl

lemma pe13 : parePossibilities S0 ['B', 'G', 'O', 'R'] (⟨((2 : Nat) : Int), ((1 : Nat) : Int)⟩ : Score) = E13 :=
  pare_node _ _ 2 1 _ S0_wf (by decide) (by decide) rfl

lemma pe14 : parePossibilities E13 ['B', 'O', 'R', 'Y'] (⟨((0 : Nat) : Int), ((3 : Nat) : Int)⟩ : Score) = E14 :=
  pare_node _ _ 0 3 _ rfl (by decide) (by decide) rfl

lemma pe15 : parePossibilities E13 ['B', 'O', 'R', 'Y'] (⟨((0 : Nat) : Int), ((2 : Nat) : Int)⟩ : Score) = E15 :=
  pare_node _ _ 0 2 _ rfl (by decide) (by decide) rfl

lemma pe16 : parePossibilities S0 ['B', 'G', 'O', 'R'] (⟨((3 : Nat) : Int), ((1 : Nat) : Int)⟩ : Score) = E16 :=
  pare_node _ _ 3 1 _ S0_wf (by decide) (by decide) rfl

lemma pe17 : parePossibilities E14 ['B', 'O', 'G', 'Y'] (⟨((0 : Nat) : Int), ((2 : Nat) : Int)⟩ : Score) = [['B', 'O', 'R', 'P']] :=
  pare_node _ _ 0 2 _ rfl (by decide) (by decide) rfl

lemma pe18 : parePossibilities E13 ['B', 'O', 'R', 'Y'] (⟨((1 : Nat) : Int), ((2 : Nat) : Int)⟩ : Score) = E18 :=
  pare_node _ _ 1 2 _ rfl (by decide) (by decide) rfl

lemma pe19 : parePossibilities E3 ['B', 'G', 'R', 'Y'] (⟨((2 : Nat) : Int), ((1 : Nat) : Int)⟩ : Score) = E19 :=
  pare_node _ _ 2 1 _ rfl (by decide) (by decide) rfl

lemma pe20 : parePossibilities S0 ['B', 'G', 'O', 'R'] (⟨((1 : Nat) : Int), ((1 : Nat) : Int)⟩ : Score) = E20 :=
  pare_node _ _ 1 1 _ S0_wf (by decide) (by decide) rfl

lemma pe21 : parePossibilities E15 ['B', 'O', 'G', 'P'] (⟨((2 : Nat) : Int), ((2 : Nat) : Int)⟩ : Score) = [['B', 'O', 'P', 'G']] :=
  pare_node _ _ 2 2 _ rfl (by decide) (by decide) rfl

lemma pe22 : parePossibilities E3 ['B', 'G', 'R', 'Y'] (⟨((1 : Nat) : Int), ((1 : Nat) : Int)⟩ : Score) = E22 :=
  pare_node _ _ 1 1 _ rfl (by decide) (by decide) rfl

lemma pe23 : parePossibilities E20 ['B', 'O', 'Y', 'P'] (⟨((2 : Nat) : Int), ((2 : Nat) : Int)⟩ : Score) = E23 :=
  pare_node _ _ 2 2 _ rfl (by decide) (by decide) rfl

lemma pe24 : parePossibilities E16 ['B', 'O', 'R', 'G'] (⟨((3 : Nat) : Int), ((1 : Nat) : Int)⟩ : Score) = E24 :=
  pare_node _ _ 3 1 _ rfl (by decide) (by decide) rfl

lemma pe25 : parePossibilities E18 ['B', 'O', 'Y', 'G'] (⟨((2 : Nat) : Int), ((1 : Nat) : Int)⟩ : Score) = [['B', 'R', 'G', 'Y']] :=
  pare_node _ _ 2 1 _ rfl (by decide) (by decide) rfl

lemma pe26 : parePossibilities E13 ['B', 'O', 'R', 'Y'] (⟨((1 : Nat) : Int), ((1 : Nat) : Int)⟩ : Score) = E26 :=
  pare_node _ _ 1 1 _ rfl (by decide) (by decide) rfl

lemma pe27 : parePossibilities E12 ['B', 'O', 'G', 'R'] (⟨((3 : Nat) : Int), ((1 : Nat) : Int)⟩ : Score) = E27 :=
  pare_node _ _ 3 1 _ rfl (by decide) (by decide) rfl

lemma pe28 : parePossibilities E22 ['B', 'O', 'P', 'R'] (⟨((3 : Nat) : Int), ((1 : Nat) : Int)⟩ : Score) = [['B', 'R', 'O', 'P']] :=
  pare_node _ _ 3 1 _ rfl (by decide) (by decide) rfl

lemma pe29 : parePossibilities E13 ['B', 'O', 'R', 'Y'] (⟨((2 : Nat) : Int), ((1 : Nat) : Int)⟩ : Score) = E29 :=
  pare_node _ _ 2 1 _ rfl (by decide) (by decide) rfl

lemma pe30 : parePossibilities E29 ['G', 'R', 'O', 'Y'] (⟨((2 : Nat) : Int), ((1 : Nat) : Int)⟩ : Score) = E30 :=
  pare_node _ _ 2 1 _ rfl (by decide) (by decide) rfl

lemma pe31 : parePossibilities E13 ['B', 'O', 'R', 'Y'] (⟨((3 : Nat) : Int), ((1 : Nat) : Int)⟩ : Score) = E31 :=
  pare_node _ _ 3 1 _ rfl (by decide) (by decide) rfl

lemma pe32 : parePossibilities E20 ['B', 'O', 'Y', 'P'] (⟨((0 : Nat) : Int), ((3 : Nat) : Int)⟩ : Score) = [['B', 'R', 'Y', 'P']] :=
  pare_node _ _ 0 3 _ rfl (by decide) (by decide) rfl

lemma pe33 : parePossibilities E26 ['B', 'R', 'G', 'P'] (⟨((2 : Nat) : Int), ((2 : Nat) : Int)⟩ : Score) = [['B', 'R', 'P', 'G']] :=
  pare_node _ _ 2 2 _ rfl (by decide) (by decide) rfl

lemma pe34 : parePossibilities E29 ['G', 'R', 'O', 'Y'] (⟨((1 : Nat) : Int), ((1 : Nat) : Int)⟩ : Score) = [['B', 'R', 'P', 'O']] :=
  pare_node _ _ 1 1 _ rfl (by decide) (by decide) rfl

lemma pe35 : parePossibilities E20 ['B', 'O', 'Y', 'P'] (⟨((2 : Nat) : Int), ((1 : Nat) : Int)⟩ : Score) = E35 :=
  pare_node _ _ 2 1 _ rfl (by decide) (by decide) rfl

lemma pe36 : parePossibilities E35 ['B', 'Y', 'P', 'G'] (⟨((1 : Nat) : Int), ((2 : Nat) : Int)⟩ : Score) = [['B', 'R', 'P', 'Y']] :=
  pare_node _ _ 1 2 _ rfl (by decide) (by decide) rfl

lemma pe37 : parePossibilities E29 ['G', 'R', 'O', 'Y'] (⟨((3 : Nat) : Int), ((0 : Nat) : Int)⟩ : Score) = E37 :=
  pare_node _ _ 3 0 _ rfl (by decide) (by decide) rfl

lemma pe38 : parePossibilities E3 ['B', 'G', 'R', 'Y'] (⟨((3 : Nat) : Int), ((1 : Nat) : Int)⟩ : Score) = E38 :=
  pare_node _ _ 3 1 _ rfl (by decide) (by decide) rfl

lemma pe39 : parePossibilities E20 ['B', 'O', 'Y', 'P'] (⟨((1 : Nat) : Int), ((2 : Nat) : Int)⟩ : Score) = E39 :=
  pare_node _ _ 1 2 _ rfl (by decide) (by decide) rfl

lemma pe40 : parePossibilities E19 ['B', 'O', 'Y', 'R'] (⟨((2 : Nat) : Int), ((1 : Nat) : Int)⟩ : Score) = [['B', 'Y', 'O', 'G']] :=
  pare_node _ _ 2 1 _ rfl (by decide) (by decide) rfl

lemma pe41 : parePossibilities E7 ['B', 'G', 'Y', 'R'] (⟨((1 : Nat) : Int), ((2 : Nat) : Int)⟩ : Score) = E41 :=
  pare_node _ _ 1 2 _ rfl (by decide) (by decide) rfl

lemma pe42 : parePossibilities E8 ['B', 'G', 'Y', 'P'] (⟨((1 : Nat) : Int), ((2 : Nat) : Int)⟩ : Score) = E42 :=
  pare_node _ _ 1 2 _ rfl (by decide) (by decide) rfl

lemma pe43 : parePossibilities E18 ['B', 'O', 'Y', 'G'] (⟨((1 : Nat) : Int), ((2 : Nat) : Int)⟩ : Score) = [['B', 'Y', 'R', 'G']] :=
  pare_node _ _ 1 2 _ rfl (by decide) (by decide) rfl

lemma pe44 : parePossibilities E13 ['B', 'O', 'R', 'Y'] (⟨((2 : Nat) : Int), ((2 : Nat) : Int)⟩ : Score) = [['B', 'Y', 'R', 'O']] :=
  pare_node _ _ 2 2 _ rfl (by decide) (by decide) rfl

lemma pe45 : parePossibilities E39 ['B', 'Y', 'G', 'P'] (⟨((0 : Nat) : Int), ((3 : Nat) : Int)⟩ : Score) = [['B', 'Y', 'R', 'P']] :=
  pare_node _ _ 0 3 _ rfl (by decide) (by decide) rfl

lemma pe46 : parePossibilities E20 ['B', 'O', 'Y', 'P'] (⟨((3 : Nat) : Int), ((1 : Nat) : Int)⟩ : Score) = E46 :=
  pare_node _ _ 3 1 _ rfl (by decide) (by decide) rfl

lemma pe47 : parePossibilities E8 ['B', 'G', 'Y', 'P'] (⟨((2 : Nat) : Int), ((1 : Nat) : Int)⟩ : Score) = E47 :=
  pare_node _ _ 2 1 _ rfl (by decide) (by decide) rfl

lemma pe48 : parePossibilities E26 ['B', 'R', 'G', 'P'] (⟨((1 : Nat) : Int), ((2 : Nat) : Int)⟩ : Score) = [['B', 'P', 'G', 'O']] :=
  pare_node _ _ 1 2 _ rfl (by decide) (by decide) rfl

lemma pe49 : parePossibilities E19 ['B', 'O', 'Y', 'R'] (⟨((0 : Nat) : Int), ((2 : Nat) : Int)⟩ : Score) = [['B', 'P', 'G', 'R']] :=
  pare_node _ _ 0 2 _ rfl (by decide) (by decide) rfl

lemma pe50 : parePossibilities E35 ['B', 'Y', 'P', 'G'] (⟨((3 : Nat) : Int), ((1 : Nat) : Int)⟩ : Score) = [['B', 'P', 'G', 'Y']] :=
  pare_node _ _ 3 1 _ rfl (by decide) (by decide) rfl

lemma pe51 : parePossibilities E22 ['B', 'O', 'P', 'R'] (⟨((2 : Nat) : Int), ((1 : Nat) : Int)⟩ : Score) = [['B', 'P', 'O', 'G']] :=
  pare_node _ _ 2 1 _ rfl (by decide) (by decide) rfl

lemma pe52 : parePossibilities E10 ['B', 'G', 'P', 'R'] (⟨((1 : Nat) : Int), ((2 : Nat) : Int)⟩ : Score) = E52 :=
  pare_node _ _ 1 2 _ rfl (by decide) (by decide) rfl

lemma pe53 : parePossibilities E47 ['B', 'Y', 'P', 'R'] (⟨((2 : Nat) : Int), ((1 : Nat) : Int)⟩ : Score) = [['B', 'P', 'O', 'Y']] :=
  pare_node _ _ 2 1 _ rfl (by decide) (by decide) rfl

lemma pe54 : parePossibilities E15 ['B', 'O', 'G', 'P'] (⟨((2 : Nat) : Int), ((1 : Nat) : Int)⟩ : Score) = [['B', 'P', 'R', 'G']] :=
  pare_node _ _ 2 1 _ rfl (by decide) (by decide) rfl

lemma pe55 : parePossibilities E18 ['B', 'O', 'Y', 'G'] (⟨((1 : Nat) : Int), ((1 : Nat) : Int)⟩ : Score) = [['B', 'P', 'R', 'O']] :=
  pare_node _ _ 1 1 _ rfl (by decide) (by decide) rfl

lemma pe56 : parePossibilities E35 ['B', 'Y', 'P', 'G'] (⟨((2 : Nat) : Int), ((1 : Nat) : Int)⟩ : Score) = E56 :=
  pare_node _ _ 2 1 _ rfl (by decide) (by decide) rfl

lemma pe57 : parePossibilities E39 ['B', 'Y', 'G', 'P'] (⟨((3 : Nat) : Int), ((1 : Nat) : Int)⟩ : Score) = [['B', 'P', 'Y', 'G']] :=
  pare_node _ _ 3 1 _ rfl (by decide) (by decide) rfl

lemma pe58 : parePossibilities E23 ['B', 'O', 'P', 'Y'] (⟨((3 : Nat) : Int), ((1 : Nat) : Int)⟩ : Score) = [['B', 'P', 'Y', 'O']] :=
  pare_node _ _ 3 1 _ rfl (by decide) (by decide) rfl

lemma pe59 : parePossibilities E42 ['B', 'Y', 'O', 'P'] (⟨((2 : Nat) : Int), ((1 : Nat) : Int)⟩ : Score) = [['B', 'P', 'Y', 'R']] :=
  pare_node _ _ 2 1 _ rfl (by decide) (by decide) rfl

lemma pe60 : parePossibilities E2 ['B', 'G', 'R', 'O'] (⟨((4 : Nat) : Int), ((0 : Nat) : Int)⟩ : Score) = [['G', 'B', 'O', 'R']] :=
  pare_node _ _ 4 0 _ rfl (by decide) (by decide) rfl

lemma pe61 : parePossibilities E29 ['G', 'R', 'O', 'Y'] (⟨((0 : Nat) : Int), ((3 : Nat) : Int)⟩ : Score) = [['G', 'B', 'O', 'Y']] :=
  pare_node _ _ 0 3 _ rfl (by decide) (by decide) rfl

lemma pe62 : parePossibilities E13 ['B', 'O', 'R', 'Y'] (⟨((2 : Nat) : Int), ((0 : Nat) : Int)⟩ : Score) = E62 :=
  pare_node _ _ 2 0 _ rfl (by decide) (by decide) rfl

lemma pe63 : parePossibilities E62 ['G', 'P', 'O', 'B'] (⟨((2 : Nat) : Int), ((2 : Nat) : Int)⟩ : Score) = [['G', 'B', 'O', 'P']] :=
  pare_node _ _ 2 2 _ rfl (by decide) (by decide) rfl

lemma pe64 : parePossibilities S0 ['B', 'G', 'O', 'R'] (⟨((4 : Nat) : Int), ((0 : Nat) : Int)⟩ : Score) = E64 :=
  pare_node _ _ 4 0 _ S0_wf (by decide) (by decide) rfl

lemma pe65 : parePossibilities S0 ['B', 'G', 'O', 'R'] (⟨((3 : Nat) : Int), ((0 : Nat) : Int)⟩ : Score) = E65 :=
  pare_node _ _ 3 0 _ S0_wf (by decide) (by decide) rfl

lemma pe66 : parePossibilities E65 ['G', 'O', 'R', 'Y'] (⟨((0 : Nat) : Int), ((3 : Nat) : Int)⟩ : Score) = E66 :=
  pare_node _ _ 0 3 _ rfl (by decide) (by decide) rfl

lemma pe67 : parePossibilities E65 ['G', 'O', 'R', 'Y'] (⟨((0 : Nat) : Int), ((2 : Nat) : Int)⟩ : Score) = E67 :=
  pare_node _ _ 0 2 _ rfl (by decide) (by decide) rfl

lemma pe68 : parePossibilities E65 ['G', 'O', 'R', 'Y'] (⟨((2 : Nat) : Int), ((1 : Nat) : Int)⟩ : Score) = E68 :=
  pare_node _ _ 2 1 _ rfl (by decide) (by decide) rfl

lemma pe69 : parePossibilities E13 ['B', 'O', 'R', 'Y'] (⟨((3 : Nat) : Int), ((0 : Nat) : Int)⟩ : Score) = E69 :=
  pare_node _ _ 3 0 _ rfl (by decide) (by decide) rfl

lemma pe70 : parePossibilities E69 ['O', 'Y', 'G', 'R'] (⟨((2 : Nat) : Int), ((1 : Nat) : Int)⟩ : Score) = E70 :=
  pare_node _ _ 2 1 _ rfl (by decide) (by decide) rfl

lemma pe71 : parePossibilities E70 ['G', 'Y', 'O', 'B'] (⟨((2 : Nat) : Int), ((1 : Nat) : Int)⟩ : Score) = [['G', 'B', 'Y', 'R']] :=
  pare_node _ _ 2 1 _ rfl (by decide) (by decide) rfl

lemma pe72 : parePossibilities S0 ['B', 'G', 'O', 'R'] (⟨((2 : Nat) : Int), ((0 : Nat) : Int)⟩ : Score) = E72 :=
  pare_node _ _ 2 0 _ S0_wf (by decide) (by decide) rfl

lemma pe73 : parePossibilities E72 ['G', 'Y', 'R', 'P'] (⟨((1 : Nat) : Int), ((2 : Nat) : Int)⟩ : Score) = E73 :=
  pare_node _ _ 1 2 _ rfl (by decide) (by decide) rfl

lemma pe74 : parePossibilities E73 ['G', 'O', 'Y', 'P'] (⟨((0 : Nat) : Int), ((3 : Nat) : Int)⟩ : Score) = [['G', 'B', 'Y', 'P']] :=
  pare_node _ _ 0 3 _ rfl (by decide) (by decide) rfl

lemma pe75 : parePossibilities E65 ['G', 'O', 'R', 'Y'] (⟨((1 : Nat) : Int), ((1 : Nat) : Int)⟩ : Score) = E75 :=
  pare_node _ _ 1 1 _ rfl (by decide) (by decide) rfl

lemma pe76 : parePossibilities E75 ['R', 'O', 'B', 'P'] (⟨((3 : Nat) : Int), ((0 : Nat) : Int)⟩ : Score) = E76 :=
  pare_node _ _ 3 0 _ rfl (by decide) (by decide) rfl

lemma pe77 : parePossibilities E62 ['G', 'P', 'O', 'B'] (⟨((2 : Nat) : Int), ((1 : Nat) : Int)⟩ : Score) = E77 :=
  pare_node _ _ 2 1 _ rfl (by decide) (by decide) rfl

lemma pe78 : parePossibilities E72 ['G', 'Y', 'R', 'P'] (⟨((2 : Nat) : Int), ((1 : Nat) : Int)⟩ : Score) = E78 :=
  pare_node _ _ 2 1 _ rfl (by decide) (by decide) rfl

lemma pe79 : parePossibilities E24 ['B', 'R', 'G', 'O'] (⟨((4 : Nat) : Int), ((0 : Nat) : Int)⟩ : Score) = E79 :=
  pare_node _ _ 4 0 _ rfl (by decide) (by decide) rfl

lemma pe80 : parePossibilities E66 ['G', 'B', 'R', 'Y'] (⟨((1 : Nat) : Int), ((2 : Nat) : Int)⟩ : Score) = [['G', 'O', 'B', 'Y']] :=
  pare_node _ _ 1 2 _ rfl (by decide) (by decide) rfl

lemma pe81 : parePossibilities E67 ['G', 'B', 'R', 'P'] (⟨((1 : Nat) : Int), ((2 : Nat) : Int)⟩ : Score) = [['G', 'O', 'B', 'P']] :=
  pare_node _ _ 1 2 _ rfl (by decide) (by decide) rfl

lemma pe82 : parePossibilities E64 ['G', 'B', 'R', 'O'] (⟨((2 : Nat) : Int), ((2 : Nat) : Int)⟩ : Score) = E82 :=
  pare_node _ _ 2 2 _ rfl (by decide) (by decide) rfl

lemma pe83 : parePossibilities E66 ['G', 'B', 'R', 'Y'] (⟨((0 : Nat) : Int), ((2 : Nat) : Int)⟩ : Score) = [['G', 'O', 'R', 'P']] :=
  pare_node _ _ 0 2 _ rfl (by decide) (by decide) rfl

lemma pe84 : parePossibilities E65 ['G', 'O', 'R', 'Y'] (⟨((1 : Nat) : Int), ((2 : Nat) : Int)⟩ : Score) = E84 :=
  pare_node _ _ 1 2 _ rfl (by decide) (by decide) rfl

lemma pe85 : parePossibilities E29 ['G', 'R', 'O', 'Y'] (⟨((3 : Nat) : Int), ((1 : Nat) : Int)⟩ : Score) = [['G', 'O', 'Y', 'R']] :=
  pare_node _ _ 3 1 _ rfl (by decide) (by decide) rfl

lemma pe86 : parePossibilities E67 ['G', 'B', 'R', 'P'] (⟨((2 : Nat) : Int), ((1 : Nat) : Int)⟩ : Score) = E86 :=
  pare_node _ _ 2 1 _ rfl (by decide) (by decide) rfl

lemma pe87 : parePossibilities E26 ['B', 'R', 'G', 'P'] (⟨((3 : Nat) : Int), ((0 : Nat) : Int)⟩ : Score) = E87 :=
  pare_node _ _ 3 0 _ rfl (by decide) (by decide) rfl

lemma pe88 : parePossibilities E78 ['G', 'B', 'P', 'Y'] (⟨((0 : Nat) : Int), ((3 : Nat) : Int)⟩ : Score) = [['G', 'O', 'P', 'Y']] :=
  pare_node _ _ 0 3 _ rfl (by decide) (by decide) rfl

lemma pe89 : parePossibilities E82 ['G', 'O', 'R', 'B'] (⟨((3 : Nat) : Int), ((1 : Nat) : Int)⟩ : Score) = E89 :=
  pare_node _ _ 3 1 _ rfl (by decide) (by decide) rfl

lemma pe90 : parePossibilities E84 ['G', 'O', 'Y', 'B'] (⟨((2 : Nat) : Int), ((1 : Nat) : Int)⟩ : Score) = E90 :=
  pare_node _ _ 2 1 _ rfl (by decide) (by decide) rfl

lemma pe91 : parePossibilities E75 ['R', 'O', 'B', 'P'] (⟨((1 : Nat) : Int), ((2 : Nat) : Int)⟩ : Score) = E91 :=
  pare_node _ _ 1 2 _ rfl (by decide) (by decide) rfl

lemma pe92 : parePossibilities E16 ['B', 'O', 'R', 'G'] (⟨((4 : Nat) : Int), ((0 : Nat) : Int)⟩ : Score) = E92 :=
  pare_node _ _ 4 0 _ rfl (by decide) (by decide) rfl

lemma pe93 : parePossibilities E62 ['G', 'P', 'O', 'B'] (⟨((1 : Nat) : Int), ((2 : Nat) : Int)⟩ : Score) = E93 :=
  pare_node _ _ 1 2 _ rfl (by decide) (by decide) rfl

lemma pe94 : parePossibilities E68 ['G', 'B', 'Y', 'O'] (⟨((1 : Nat) : Int), ((2 : Nat) : Int)⟩ : Score) = E94 :=
  pare_node _ _ 1 2 _ rfl (by decide) (by decide) rfl

lemma pe95 : parePossibilities E65 ['G', 'O', 'R', 'Y'] (⟨((3 : Nat) : Int), ((1 : Nat) : Int)⟩ : Score) = E95 :=
  pare_node _ _ 3 1 _ rfl (by decide) (by decide) rfl

lemma pe96 : parePossibilities E72 ['G', 'Y', 'R', 'P'] (⟨((2 : Nat) : Int), ((2 : Nat) : Int)⟩ : Score) = E96 :=
  pare_node _ _ 2 2 _ rfl (by decide) (by decide) rfl

lemma pe97 : parePossibilities E76 ['G', 'B', 'P', 'O'] (⟨((1 : Nat) : Int), ((2 : Nat) : Int)⟩ : Score) = [['G', 'R', 'P', 'B']] :=
  pare_node _ _ 1 2 _ rfl (by decide) (by decide) rfl

lemma pe98 : parePossibilities E68 ['G', 'B', 'Y', 'O'] (⟨((0 : Nat) : Int), ((2 : Nat) : Int)⟩ : Score) = [['G', 'R', 'P', 'O']] :=
  pare_node _ _ 0 2 _ rfl (by decide) (by decide) rfl

lemma pe99 : parePossibilities E72 ['G', 'Y', 'R', 'P'] (⟨((3 : Nat) : Int), ((1 : Nat) : Int)⟩ : Score) = E99 :=
  pare_node _ _ 3 1 _ rfl (by decide) (by decide) rfl

lemma pe100 : parePossibilities E68 ['G', 'B', 'Y', 'O'] (⟨((2 : Nat) : Int), ((2 : Nat) : Int)⟩ : Score) = [['G', 'Y', 'B', 'O']] :=
  pare_node _ _ 2 2 _ rfl (by decide) (by decide) rfl

lemma pe101 : parePossibilities E69 ['O', 'Y', 'G', 'R'] (⟨((1 : Nat) : Int), ((2 : Nat) : Int)⟩ : Score) = E101 :=
  pare_node _ _ 1 2 _ rfl (by decide) (by decide) rfl

lemma pe102 : parePossibilities E72 ['G', 'Y', 'R', 'P'] (⟨((0 : Nat) : Int), ((3 : Nat) : Int)⟩ : Score) = E102 :=
  pare_node _ _ 0 3 _ rfl (by decide) (by decide) rfl

lemma pe103 : parePossibilities E3 ['B', 'G', 'R', 'Y'] (⟨((3 : Nat) : Int), ((0 : Nat) : Int)⟩ : Score) = E103 :=
  pare_node _ _ 3 0 _ rfl (by decide) (by decide) rfl

lemma pe104 : parePossibilities E56 ['B', 'P', 'R', 'Y'] (⟨((2 : Nat) : Int), ((0 : Nat) : Int)⟩ : Score) = [['G', 'Y', 'O', 'P']] :=
  pare_node _ _ 2 0 _ rfl (by decide) (by decide) rfl

lemma pe105 : parePossibilities E84 ['G', 'O', 'Y', 'B'] (⟨((1 : Nat) : Int), ((2 : Nat) : Int)⟩ : Score) = E105 :=
  pare_node _ _ 1 2 _ rfl (by decide) (by decide) rfl

lemma pe106 : parePossibilities E65 ['G', 'O', 'R', 'Y'] (⟨((2 : Nat) : Int), ((2 : Nat) : Int)⟩ : Score) = E106 :=
  pare_node _ _ 2 2 _ rfl (by decide) (by decide) rfl

lemma pe107 : parePossibilities E73 ['G', 'O', 'Y', 'P'] (⟨((2 : Nat) : Int), ((1 : Nat) : Int)⟩ : Score) = [['G', 'Y', 'P', 'B']] :=
  pare_node _ _ 2 1 _ rfl (by decide) (by decide) rfl

lemma pe108 : parePossibilities E73 ['G', 'O', 'Y', 'P'] (⟨((3 : Nat) : Int), ((1 : Nat) : Int)⟩ : Score) = E108 :=
  pare_node _ _ 3 1 _ rfl (by decide) (by decide) rfl

lemma pe109 : parePossibilities E20 ['B', 'O', 'Y', 'P'] (⟨((2 : Nat) : Int), ((0 : Nat) : Int)⟩ : Score) = E109 :=
  pare_node _ _ 2 0 _ rfl (by decide) (by decide) rfl

lemma pe110 : parePossibilities E75 ['R', 'O', 'B', 'P'] (⟨((2 : Nat) : Int), ((1 : Nat) : Int)⟩ : Score) = E110 :=
  pare_node _ _ 2 1 _ rfl (by decide) (by decide) rfl

lemma pe111 : parePossibilities E93 ['G', 'R', 'O', 'P'] (⟨((2 : Nat) : Int), ((1 : Nat) : Int)⟩ : Score) = [['G', 'P', 'B', 'R']] :=
  pare_node _ _ 2 1 _ rfl (by decide) (by decide) rfl

lemma pe112 : parePossibilities E78 ['G', 'B', 'P', 'Y'] (⟨((2 : Nat) : Int), ((2 : Nat) : Int)⟩ : Score) = [['G', 'P', 'B', 'Y']] :=
  pare_node _ _ 2 2 _ rfl (by decide) (by decide) rfl

lemma pe113 : parePossibilities E3 ['B', 'G', 'R', 'Y'] (⟨((2 : Nat) : Int), ((0 : Nat) : Int)⟩ : Score) = E113 :=
  pare_node _ _ 2 0 _ rfl (by decide) (by decide) rfl

lemma pe114 : parePossibilities E20 ['B', 'O', 'Y', 'P'] (⟨((3 : Nat) : Int), ((0 : Nat) : Int)⟩ : Score) = E114 :=
  pare_node _ _ 3 0 _ rfl (by decide) (by decide) rfl

lemma pe115 : parePossibilities E67 ['G', 'B', 'R', 'P'] (⟨((2 : Nat) : Int), ((2 : Nat) : Int)⟩ : Score) = [['G', 'P', 'R', 'B']] :=
  pare_node _ _ 2 2 _ rfl (by decide) (by decide) rfl

lemma pe116 : parePossibilities E84 ['G', 'O', 'Y', 'B'] (⟨((1 : Nat) : Int), ((1 : Nat) : Int)⟩ : Score) = E116 :=
  pare_node _ _ 1 1 _ rfl (by decide) (by decide) rfl

lemma pe117 : parePossibilities E96 ['G', 'R', 'Y', 'P'] (⟨((3 : Nat) : Int), ((1 : Nat) : Int)⟩ : Score) = E117 :=
  pare_node _ _ 3 1 _ rfl (by decide) (by decide) rfl

lemma pe118 : parePossibilities E78 ['G', 'B', 'P', 'Y'] (⟨((3 : Nat) : Int), ((1 : Nat) : Int)⟩ : Score) = E118 :=
  pare_node _ _ 3 1 _ rfl (by decide) (by decide) rfl

lemma pe119 : parePossibilities E78 ['G', 'B', 'P', 'Y'] (⟨((2 : Nat) : Int), ((1 : Nat) : Int)⟩ : Score) = E119 :=
  pare_node _ _ 2 1 _ rfl (by decide) (by decide) rfl

lemma pe120 : parePossibilities E20 ['B', 'O', 'Y', 'P'] (⟨((1 : Nat) : Int), ((1 : Nat) : Int)⟩ : Score) = E120 :=
  pare_node _ _ 1 1 _ rfl (by decide) (by decide) rfl

lemma pe121 : parePossibilities E92 ['G', 'R', 'O', 'B'] (⟨((4 : Nat) : Int), ((0 : Nat) : Int)⟩ : Score) = E121 :=
  pare_node _ _ 4 0 _ rfl (by decide) (by decide) rfl

lemma pe122 : parePossibilities E68 ['G', 'B', 'Y', 'O'] (⟨((3 : Nat) : Int), ((1 : Nat) : Int)⟩ : Score) = [['O', 'B', 'G', 'Y']] :=
  pare_node _ _ 3 1 _ rfl (by decide) (by decide) rfl

lemma pe123 : parePossibilities E65 ['G', 'O', 'R', 'Y'] (⟨((2 : Nat) : Int), ((0 : Nat) : Int)⟩ : Score) = E123 :=
  pare_node _ _ 2 0 _ rfl (by decide) (by decide) rfl

lemma pe124 : parePossibilities E123 ['O', 'B', 'P', 'G'] (⟨((2 : Nat) : Int), ((2 : Nat) : Int)⟩ : Score) = E124 :=
  pare_node _ _ 2 2 _ rfl (by decide) (by decide) rfl

lemma pe125 : parePossibilities E89 ['G', 'R', 'B', 'O'] (⟨((4 : Nat) : Int), ((0 : Nat) : Int)⟩ : Score) = [['O', 'B', 'R', 'G']] :=
  pare_node _ _ 4 0 _ rfl (by decide) (by decide) rfl

lemma pe126 : parePossibilities E84 ['G', 'O', 'Y', 'B'] (⟨((3 : Nat) : Int), ((0 : Nat) : Int)⟩ : Score) = [['O', 'B', 'R', 'Y']] :=
  pare_node _ _ 3 0 _ rfl (by decide) (by decide) rfl

lemma pe127 : parePossibilities E75 ['R', 'O', 'B', 'P'] (⟨((3 : Nat) : Int), ((1 : Nat) : Int)⟩ : Score) = [['O', 'B', 'R', 'P']] :=
  pare_node _ _ 3 1 _ rfl (by decide) (by decide) rfl

lemma pe128 : parePossibilities E65 ['G', 'O', 'R', 'Y'] (⟨((3 : Nat) : Int), ((0 : Nat) : Int)⟩ : Score) = E128 :=
  pare_node _ _ 3 0 _ rfl (by decide) (by decide) rfl

lemma pe129 : parePossibilities E13 ['B', 'O', 'R', 'Y'] (⟨((4 : Nat) : Int), ((0 : Nat) : Int)⟩ : Score) = E129 :=
  pare_node _ _ 4 0 _ rfl (by decide) (by decide) rfl

lemma pe130 : parePossibilities E129 ['O', 'Y', 'B', 'R'] (⟨((2 : Nat) : Int), ((2 : Nat) : Int)⟩ : Score) = [['O', 'B', 'Y', 'R']] :=
  pare_node _ _ 2 2 _ rfl (by decide) (by decide) rfl

lemma pe131 : parePossibilities E72 ['G', 'Y', 'R', 'P'] (⟨((1 : Nat) : Int), ((1 : Nat) : Int)⟩ : Score) = E131 :=
  pare_node _ _ 1 1 _ rfl (by decide) (by decide) rfl

lemma pe132 : parePossibilities E69 ['O', 'Y', 'G', 'R'] (⟨((0 : Nat) : Int), ((2 : Nat) : Int)⟩ : Score) = E132 :=
  pare_node _ _ 0 2 _ rfl (by decide) (by decide) rfl

lemma pe133 : parePossibilities E72 ['G', 'Y', 'R', 'P'] (⟨((2 : Nat) : Int), ((0 : Nat) : Int)⟩ : Score) = E133 :=
  pare_node _ _ 2 0 _ rfl (by decide) (by decide) rfl

lemma pe134 : parePossibilities E27 ['B', 'R', 'O', 'G'] (⟨((4 : Nat) : Int), ((0 : Nat) : Int)⟩ : Score) = [['O', 'G', 'B', 'R']] :=
  pare_node _ _ 4 0 _ rfl (by decide) (by decide) rfl

lemma pe135 : parePossibilities E30 ['B', 'R', 'Y', 'G'] (⟨((3 : Nat) : Int), ((0 : Nat) : Int)⟩ : Score) = [['O', 'G', 'B', 'Y']] :=
  pare_node _ _ 3 0 _ rfl (by decide) (by decide) rfl

lemma pe136 : parePossibilities E62 ['G', 'P', 'O', 'B'] (⟨((4 : Nat) : Int), ((0 : Nat) : Int)⟩ : Score) = E136 :=
  pare_node _ _ 4 0 _ rfl (by decide) (by decide) rfl

lemma pe137 : parePossibilities E79 ['G', 'O', 'B', 'R'] (⟨((4 : Nat) : Int), ((0 : Nat) : Int)⟩ : Score) = E137 :=
  pare_node _ _ 4 0 _ rfl (by decide) (by decide) rfl

lemma pe138 : parePossibilities E18 ['B', 'O', 'Y', 'G'] (⟨((3 : Nat) : Int), ((0 : Nat) : Int)⟩ : Score) = [['O', 'G', 'R', 'Y']] :=
  pare_node _ _ 3 0 _ rfl (by decide) (by decide) rfl

lemma pe139 : parePossibilities E26 ['B', 'R', 'G', 'P'] (⟨((2 : Nat) : Int), ((1 : Nat) : Int)⟩ : Score) = E139 :=
  pare_node _ _ 2 1 _ rfl (by decide) (by decide) rfl

lemma pe140 : parePossibilities E70 ['G', 'Y', 'O', 'B'] (⟨((3 : Nat) : Int), ((1 : Nat) : Int)⟩ : Score) = [['O', 'G', 'Y', 'B']] :=
  pare_node _ _ 3 1 _ rfl (by decide) (by decide) rfl

lemma pe141 : parePossibilities E19 ['B', 'O', 'Y', 'R'] (⟨((1 : Nat) : Int), ((2 : Nat) : Int)⟩ : Score) = [['O', 'G', 'Y', 'R']] :=
  pare_node _ _ 1 2 _ rfl (by decide) (by decide) rfl

lemma pe142 : parePossibilities E39 ['B', 'Y', 'G', 'P'] (⟨((2 : Nat) : Int), ((1 : Nat) : Int)⟩ : Score) = [['O', 'G', 'Y', 'P']] :=
  pare_node _ _ 2 1 _ rfl (by decide) (by decide) rfl

lemma pe143 : parePossibilities E62 ['G', 'P', 'O', 'B'] (⟨((3 : Nat) : Int), ((1 : Nat) : Int)⟩ : Score) = E143 :=
  pare_node _ _ 3 1 _ rfl (by decide) (by decide) rfl

lemma pe144 : parePossibilities E22 ['B', 'O', 'P', 'R'] (⟨((1 : Nat) : Int), ((2 : Nat) : Int)⟩ : Score) = [['O', 'G', 'P', 'R']] :=
  pare_node _ _ 1 2 _ rfl (by decide) (by decide) rfl

lemma pe145 : parePossibilities E114 ['G', 'P', 'O', 'Y'] (⟨((3 : Nat) : Int), ((1 : Nat) : Int)⟩ : Score) = E145 :=
  pare_node _ _ 3 1 _ rfl (by decide) (by decide) rfl

lemma pe146 : parePossibilities E64 ['G', 'B', 'R', 'O'] (⟨((4 : Nat) : Int), ((0 : Nat) : Int)⟩ : Score) = E146 :=
  pare_node _ _ 4 0 _ rfl (by decide) (by decide) rfl

lemma pe147 : parePossibilities E68 ['G', 'B', 'Y', 'O'] (⟨((3 : Nat) : Int), ((0 : Nat) : Int)⟩ : Score) = E147 :=
  pare_node _ _ 3 0 _ rfl (by decide) (by decide) rfl

lemma pe148 : parePossibilities E123 ['O', 'B', 'P', 'G'] (⟨((2 : Nat) : Int), ((1 : Nat) : Int)⟩ : Score) = E148 :=
  pare_node _ _ 2 1 _ rfl (by decide) (by decide) rfl

lemma pe149 : parePossibilities E148 ['R', 'B', 'G', 'P'] (⟨((2 : Nat) : Int), ((1 : Nat) : Int)⟩ : Score) = [['O', 'R', 'B', 'P']] :=
  pare_node _ _ 2 1 _ rfl (by decide) (by decide) rfl

lemma pe150 : parePossibilities E146 ['O', 'R', 'B', 'G'] (⟨((2 : Nat) : Int), ((2 : Nat) : Int)⟩ : Score) = E150 :=
  pare_node _ _ 2 2 _ rfl (by decide) (by decide) rfl

lemma pe151 : parePossibilities E95 ['G', 'R', 'Y', 'O'] (⟨((3 : Nat) : Int), ((1 : Nat) : Int)⟩ : Score) = E151 :=
  pare_node _ _ 3 1 _ rfl (by decide) (by decide) rfl

lemma pe152 : parePossibilities E128 ['O', 'B', 'Y', 'G'] (⟨((1 : Nat) : Int), ((1 : Nat) : Int)⟩ : Score) = [['O', 'R', 'G', 'P']] :=
  pare_node _ _ 1 1 _ rfl (by decide) (by decide) rfl

lemma pe153 : parePossibilities E128 ['O', 'B', 'Y', 'G'] (⟨((1 : Nat) : Int), ((2 : Nat) : Int)⟩ : Score) = E153 :=
  pare_node _ _ 1 2 _ rfl (by decide) (by decide) rfl

lemma pe154 : parePossibilities E65 ['G', 'O', 'R', 'Y'] (⟨((4 : Nat) : Int), ((0 : Nat) : Int)⟩ : Score) = E154 :=
  pare_node _ _ 4 0 _ rfl (by decide) (by decide) rfl

lemma pe155 : parePossibilities E78 ['G', 'B', 'P', 'Y'] (⟨((2 : Nat) : Int), ((0 : Nat) : Int)⟩ : Score) = E155 :=
  pare_node _ _ 2 0 _ rfl (by decide) (by decide) rfl

lemma pe156 : parePossibilities E123 ['O', 'B', 'P', 'G'] (⟨((1 : Nat) : Int), ((2 : Nat) : Int)⟩ : Score) = E156 :=
  pare_node _ _ 1 2 _ rfl (by decide) (by decide) rfl

lemma pe157 : parePossibilities E128 ['O', 'B', 'Y', 'G'] (⟨((0 : Nat) : Int), ((2 : Nat) : Int)⟩ : Score) = [['O', 'R', 'P', 'G']] :=
  pare_node _ _ 0 2 _ rfl (by decide) (by decide) rfl

lemma pe158 : parePossibilities E72 ['G', 'Y', 'R', 'P'] (⟨((3 : Nat) : Int), ((0 : Nat) : Int)⟩ : Score) = E158 :=
  pare_node _ _ 3 0 _ rfl (by decide) (by decide) rfl

lemma pe159 : parePossibilities E158 ['R', 'B', 'P', 'Y'] (⟨((1 : Nat) : Int), ((2 : Nat) : Int)⟩ : Score) = E159 :=
  pare_node _ _ 1 2 _ rfl (by decide) (by decide) rfl

lemma pe160 : parePossibilities E159 ['Y', 'B', 'P', 'G'] (⟨((1 : Nat) : Int), ((1 : Nat) : Int)⟩ : Score) = [['O', 'R', 'P', 'Y']] :=
  pare_node _ _ 1 1 _ rfl (by decide) (by decide) rfl

lemma pe161 : parePossibilities E128 ['O', 'B', 'Y', 'G'] (⟨((2 : Nat) : Int), ((2 : Nat) : Int)⟩ : Score) = [['O', 'Y', 'B', 'G']] :=
  pare_node _ _ 2 2 _ rfl (by decide) (by decide) rfl

lemma pe162 : parePossibilities E72 ['G', 'Y', 'R', 'P'] (⟨((0 : Nat) : Int), ((2 : Nat) : Int)⟩ : Score) = [['O', 'Y', 'B', 'P']] :=
  pare_node _ _ 0 2 _ rfl (by decide) (by decide) rfl

lemma pe163 : parePossibilities E128 ['O', 'B', 'Y', 'G'] (⟨((3 : Nat) : Int), ((1 : Nat) : Int)⟩ : Score) = E163 :=
  pare_node _ _ 3 1 _ rfl (by decide) (by decide) rfl

lemma pe164 : parePossibilities E108 ['G', 'Y', 'P', 'O'] (⟨((3 : Nat) : Int), ((1 : Nat) : Int)⟩ : Score) = [['O', 'Y', 'G', 'P']] :=
  pare_node _ _ 3 1 _ rfl (by decide) (by decide) rfl

lemma pe165 : parePossibilities E147 ['O', 'R', 'B', 'Y'] (⟨((3 : Nat) : Int), ((1 : Nat) : Int)⟩ : Score) = [['O', 'Y', 'R', 'B']] :=
  pare_node _ _ 3 1 _ rfl (by decide) (by decide) rfl

lemma pe166 : parePossibilities E95 ['G', 'R', 'Y', 'O'] (⟨((4 : Nat) : Int), ((0 : Nat) : Int)⟩ : Score) = [['O', 'Y', 'R', 'G']] :=
  pare_node _ _ 4 0 _ rfl (by decide) (by decide) rfl

lemma pe167 : parePossibilities E102 ['G', 'Y', 'B', 'P'] (⟨((0 : Nat) : Int), ((2 : Nat) : Int)⟩ : Score) = [['O', 'Y', 'R', 'P']] :=
  pare_node _ _ 0 2 _ rfl (by decide) (by decide) rfl

lemma pe168 : parePossibilities E131 ['O', 'B', 'Y', 'P'] (⟨((3 : Nat) : Int), ((1 : Nat) : Int)⟩ : Score) = E168 :=
  pare_node _ _ 3 1 _ rfl (by decide) (by decide) rfl

lemma pe169 : parePossibilities E119 ['G', 'P', 'Y', 'O'] (⟨((4 : Nat) : Int), ((0 : Nat) : Int)⟩ : Score) = [['O', 'Y', 'P', 'G']] :=
  pare_node _ _ 4 0 _ rfl (by decide) (by decide) rfl

lemma pe170 : parePossibilities E114 ['G', 'P', 'O', 'Y'] (⟨((3 : Nat) : Int), ((0 : Nat) : Int)⟩ : Score) = E170 :=
  pare_node _ _ 3 0 _ rfl (by decide) (by decide) rfl

lemma pe171 : parePossibilities E124 ['O', 'B', 'G', 'P'] (⟨((3 : Nat) : Int), ((1 : Nat) : Int)⟩ : Score) = [['O', 'P', 'B', 'G']] :=
  pare_node _ _ 3 1 _ rfl (by decide) (by decide) rfl

lemma pe172 : parePossibilities E132 ['O', 'B', 'P', 'R'] (⟨((2 : Nat) : Int), ((2 : Nat) : Int)⟩ : Score) = [['O', 'P', 'B', 'R']] :=
  pare_node _ _ 2 2 _ rfl (by decide) (by decide) rfl

lemma pe173 : parePossibilities E133 ['O', 'B', 'P', 'Y'] (⟨((2 : Nat) : Int), ((2 : Nat) : Int)⟩ : Score) = E173 :=
  pare_node _ _ 2 2 _ rfl (by decide) (by decide) rfl

lemma pe174 : parePossibilities E123 ['O', 'B', 'P', 'G'] (⟨((3 : Nat) : Int), ((1 : Nat) : Int)⟩ : Score) = E174 :=
  pare_node _ _ 3 1 _ rfl (by decide) (by decide) rfl

lemma pe175 : parePossibilities E77 ['G', 'B', 'P', 'R'] (⟨((2 : Nat) : Int), ((1 : Nat) : Int)⟩ : Score) = [['O', 'P', 'G', 'R']] :=
  pare_node _ _ 2 1 _ rfl (by decide) (by decide) rfl

lemma pe176 : parePossibilities E158 ['R', 'B', 'P', 'Y'] (⟨((1 : Nat) : Int), ((1 : Nat) : Int)⟩ : Score) = E176 :=
  pare_node _ _ 1 1 _ rfl (by decide) (by decide) rfl

lemma pe177 : parePossibilities E75 ['R', 'O', 'B', 'P'] (⟨((4 : Nat) : Int), ((0 : Nat) : Int)⟩ : Score) = E177 :=
  pare_node _ _ 4 0 _ rfl (by decide) (by decide) rfl

lemma pe178 : parePossibilities E68 ['G', 'B', 'Y', 'O'] (⟨((2 : Nat) : Int), ((0 : Nat) : Int)⟩ : Score) = E178 :=
  pare_node _ _ 2 0 _ rfl (by decide) (by decide) rfl

lemma pe179 : parePossibilities E78 ['G', 'B', 'P', 'Y'] (⟨((1 : Nat) : Int), ((1 : Nat) : Int)⟩ : Score) = E179 :=
  pare_node _ _ 1 1 _ rfl (by decide) (by decide) rfl

lemma pe180 : parePossibilities E133 ['O', 'B', 'P', 'Y'] (⟨((3 : Nat) : Int), ((1 : Nat) : Int)⟩ : Score) = E180 :=
  pare_node _ _ 3 1 _ rfl (by decide) (by decide) rfl

lemma pe181 : parePossibilities E158 ['R', 'B', 'P', 'Y'] (⟨((2 : Nat) : Int), ((0 : Nat) : Int)⟩ : Score) = E181 :=
  pare_node _ _ 2 0 _ rfl (by decide) (by decide) rfl

lemma pe182 : parePossibilities E35 ['B', 'Y', 'P', 'G'] (⟨((2 : Nat) : Int), ((0 : Nat) : Int)⟩ : Score) = E182 :=
  pare_node _ _ 2 0 _ rfl (by decide) (by decide) rfl

lemma pe183 : parePossibilities E82 ['G', 'O', 'R', 'B'] (⟨((4 : Nat) : Int), ((0 : Nat) : Int)⟩ : Score) = [['R', 'B', 'G', 'O']] :=
  pare_node _ _ 4 0 _ rfl (by decide) (by decide) rfl

lemma pe184 : parePossibilities E68 ['G', 'B', 'Y', 'O'] (⟨((2 : Nat) : Int), ((1 : Nat) : Int)⟩ : Score) = E184 :=
  pare_node _ _ 2 1 _ rfl (by decide) (by decide) rfl

lemma pe185 : parePossibilities E137 ['O', 'G', 'R', 'B'] (⟨((4 : Nat) : Int), ((0 : Nat) : Int)⟩ : Score) = [['R', 'B', 'O', 'G']] :=
  pare_node _ _ 4 0 _ rfl (by decide) (by decide) rfl

lemma pe186 : parePossibilities E31 ['B', 'R', 'Y', 'O'] (⟨((4 : Nat) : Int), ((0 : Nat) : Int)⟩ : Score) = E186 :=
  pare_node _ _ 4 0 _ rfl (by decide) (by decide) rfl

lemma pe187 : parePossibilities E69 ['O', 'Y', 'G', 'R'] (⟨((2 : Nat) : Int), ((0 : Nat) : Int)⟩ : Score) = E187 :=
  pare_node _ _ 2 0 _ rfl (by decide) (by decide) rfl

lemma pe188 : parePossibilities E128 ['O', 'B', 'Y', 'G'] (⟨((0 : Nat) : Int), ((3 : Nat) : Int)⟩ : Score) = [['R', 'B', 'Y', 'G']] :=
  pare_node _ _ 0 3 _ rfl (by decide) (by decide) rfl

lemma pe189 : parePossibilities E153 ['O', 'R', 'Y', 'B'] (⟨((3 : Nat) : Int), ((1 : Nat) : Int)⟩ : Score) = [['R', 'B', 'Y', 'O']] :=
  pare_node _ _ 3 1 _ rfl (by decide) (by decide) rfl

lemma pe190 : parePossibilities E119 ['G', 'P', 'Y', 'O'] (⟨((1 : Nat) : Int), ((1 : Nat) : Int)⟩ : Score) = [['R', 'B', 'Y', 'P']] :=
  pare_node _ _ 1 1 _ rfl (by decide) (by decide) rfl

lemma pe191 : parePossibilities E123 ['O', 'B', 'P', 'G'] (⟨((0 : Nat) : Int), ((3 : Nat) : Int)⟩ : Score) = [['R', 'B', 'P', 'G']] :=
  pare_node _ _ 0 3 _ rfl (by decide) (by decide) rfl

lemma pe192 : parePossibilities E156 ['O', 'R', 'P', 'B'] (⟨((3 : Nat) : Int), ((1 : Nat) : Int)⟩ : Score) = [['R', 'B', 'P', 'O']] :=
  pare_node _ _ 3 1 _ rfl (by decide) (by decide) rfl

lemma pe193 : parePossibilities E121 ['O', 'B', 'G', 'R'] (⟨((4 : Nat) : Int), ((0 : Nat) : Int)⟩ : Score) = [['R', 'G', 'B', 'O']] :=
  pare_node _ _ 4 0 _ rfl (by decide) (by decide) rfl

lemma pe194 : parePossibilities E30 ['B', 'R', 'Y', 'G'] (⟨((4 : Nat) : Int), ((0 : Nat) : Int)⟩ : Score) = [['R', 'G', 'B', 'Y']] :=
  pare_node _ _ 4 0 _ rfl (by decide) (by decide) rfl

lemma pe195 : parePossibilities E62 ['G', 'P', 'O', 'B'] (⟨((3 : Nat) : Int), ((0 : Nat) : Int)⟩ : Score) = E195 :=
  pare_node _ _ 3 0 _ rfl (by decide) (by decide) rfl

lemma pe196 : parePossibilities E12 ['B', 'O', 'G', 'R'] (⟨((4 : Nat) : Int), ((0 : Nat) : Int)⟩ : Score) = [['R', 'G', 'O', 'B']] :=
  pare_node _ _ 4 0 _ rfl (by decide) (by decide) rfl

lemma pe197 : parePossibilities E5 ['B', 'R', 'O', 'Y'] (⟨((1 : Nat) : Int), ((2 : Nat) : Int)⟩ : Score) = [['R', 'G', 'O', 'Y']] :=
  pare_node _ _ 1 2 _ rfl (by decide) (by decide) rfl

lemma pe198 : parePossibilities E22 ['B', 'O', 'P', 'R'] (⟨((3 : Nat) : Int), ((0 : Nat) : Int)⟩ : Score) = E198 :=
  pare_node _ _ 3 0 _ rfl (by decide) (by decide) rfl

lemma pe199 : parePossibilities E69 ['O', 'Y', 'G', 'R'] (⟨((3 : Nat) : Int), ((0 : Nat) : Int)⟩ : Score) = E199 :=
  pare_node _ _ 3 0 _ rfl (by decide) (by decide) rfl

lemma pe200 : parePossibilities E69 ['O', 'Y', 'G', 'R'] (⟨((4 : Nat) : Int), ((0 : Nat) : Int)⟩ : Score) = E200 :=
  pare_node _ _ 4 0 _ rfl (by decide) (by decide) rfl

lemma pe201 : parePossibilities E20 ['B', 'O', 'Y', 'P'] (⟨((0 : Nat) : Int), ((2 : Nat) : Int)⟩ : Score) = [['R', 'G', 'Y', 'P']] :=
  pare_node _ _ 0 2 _ rfl (by decide) (by decide) rfl

lemma pe202 : parePossibilities E77 ['G', 'B', 'P', 'R'] (⟨((3 : Nat) : Int), ((1 : Nat) : Int)⟩ : Score) = [['R', 'G', 'P', 'B']] :=
  pare_node _ _ 3 1 _ rfl (by decide) (by decide) rfl

lemma pe203 : parePossibilities E195 ['R', 'G', 'B', 'P'] (⟨((1 : Nat) : Int), ((2 : Nat) : Int)⟩ : Score) = [['R', 'G', 'P', 'O']] :=
  pare_node _ _ 1 2 _ rfl (by decide) (by decide) rfl

lemma pe204 : parePossibilities E109 ['G', 'Y', 'P', 'R'] (⟨((3 : Nat) : Int), ((1 : Nat) : Int)⟩ : Score) = E204 :=
  pare_node _ _ 3 1 _ rfl (by decide) (by decide) rfl

lemma pe205 : parePossibilities E150 ['O', 'R', 'G', 'B'] (⟨((4 : Nat) : Int), ((0 : Nat) : Int)⟩ : Score) = [['R', 'O', 'B', 'G']] :=
  pare_node _ _ 4 0 _ rfl (by decide) (by decide) rfl

lemma pe206 : parePossibilities E90 ['G', 'R', 'B', 'Y'] (⟨((1 : Nat) : Int), ((2 : Nat) : Int)⟩ : Score) = [['R', 'O', 'B', 'Y']] :=
  pare_node _ _ 1 2 _ rfl (by decide) (by decide) rfl

lemma pe207 : parePossibilities E146 ['O', 'R', 'B', 'G'] (⟨((4 : Nat) : Int), ((0 : Nat) : Int)⟩ : Score) = [['R', 'O', 'G', 'B']] :=
  pare_node _ _ 4 0 _ rfl (by decide) (by decide) rfl

lemma pe208 : parePossibilities E106 ['G', 'Y', 'R', 'O'] (⟨((4 : Nat) : Int), ((0 : Nat) : Int)⟩ : Score) = [['R', 'O', 'G', 'Y']] :=
  pare_node _ _ 4 0 _ rfl (by decide) (by decide) rfl

lemma pe209 : parePossibilities E178 ['O', 'P', 'R', 'G'] (⟨((4 : Nat) : Int), ((0 : Nat) : Int)⟩ : Score) = [['R', 'O', 'G', 'P']] :=
  pare_node _ _ 4 0 _ rfl (by decide) (by decide) rfl

lemma pe210 : parePossibilities E184 ['R', 'B', 'G', 'Y'] (⟨((2 : Nat) : Int), ((1 : Nat) : Int)⟩ : Score) = [['R', 'O', 'Y', 'B']] :=
  pare_node _ _ 2 1 _ rfl (by decide) (by decide) rfl

lemma pe211 : parePossibilities E151 ['O', 'R', 'G', 'Y'] (⟨((4 : Nat) : Int), ((0 : Nat) : Int)⟩ : Score) = [['R', 'O', 'Y', 'G']] :=
  pare_node _ _ 4 0 _ rfl (by decide) (by decide) rfl

lemma pe212 : parePossibilities E155 ['O', 'R', 'Y', 'P'] (⟨((2 : Nat) : Int), ((2 : Nat) : Int)⟩ : Score) = [['R', 'O', 'Y', 'P']] :=
  pare_node _ _ 2 2 _ rfl (by decide) (by decide) rfl

lemma pe213 : parePossibilities E75 ['R', 'O', 'B', 'P'] (⟨((2 : Nat) : Int), ((2 : Nat) : Int)⟩ : Score) = [['R', 'O', 'P', 'B']] :=
  pare_node _ _ 2 2 _ rfl (by decide) (by decide) rfl

lemma pe214 : parePossibilities E178 ['O', 'P', 'R', 'G'] (⟨((3 : Nat) : Int), ((1 : Nat) : Int)⟩ : Score) = [['R', 'O', 'P', 'G']] :=
  pare_node _ _ 3 1 _ rfl (by decide) (by decide) rfl

lemma pe215 : parePossibilities E158 ['R', 'B', 'P', 'Y'] (⟨((0 : Nat) : Int), ((3 : Nat) : Int)⟩ : Score) = [['R', 'O', 'P', 'Y']] :=
  pare_node _ _ 0 3 _ rfl (by decide) (by decide) rfl

lemma pe216 : parePossibilities E128 ['O', 'B', 'Y', 'G'] (⟨((2 : Nat) : Int), ((1 : Nat) : Int)⟩ : Score) = E216 :=
  pare_node _ _ 2 1 _ rfl (by decide) (by decide) rfl

lemma pe217 : parePossibilities E128 ['O', 'B', 'Y', 'G'] (⟨((3 : Nat) : Int), ((0 : Nat) : Int)⟩ : Score) = E217 :=
  pare_node _ _ 3 0 _ rfl (by decide) (by decide) rfl

lemma pe218 : parePossibilities E73 ['G', 'O', 'Y', 'P'] (⟨((1 : Nat) : Int), ((1 : Nat) : Int)⟩ : Score) = E218 :=
  pare_node _ _ 1 1 _ rfl (by decide) (by decide) rfl

lemma pe219 : parePossibilities E217 ['R', 'Y', 'B', 'O'] (⟨((1 : Nat) : Int), ((2 : Nat) : Int)⟩ : Score) = [['R', 'Y', 'G', 'B']] :=
  pare_node _ _ 1 2 _ rfl (by decide) (by decide) rfl

lemma pe220 : parePossibilities E154 ['O', 'R', 'Y', 'G'] (⟨((4 : Nat) : Int), ((0 : Nat) : Int)⟩ : Score) = [['R', 'Y', 'G', 'O']] :=
  pare_node _ _ 4 0 _ rfl (by decide) (by decide) rfl

lemma pe221 : parePossibilities E117 ['G', 'P', 'R', 'Y'] (⟨((4 : Nat) : Int), ((0 : Nat) : Int)⟩ : Score) = [['R', 'Y', 'G', 'P']] :=
  pare_node _ _ 4 0 _ rfl (by decide) (by decide) rfl

lemma pe222 : parePossibilities E129 ['O', 'Y', 'B', 'R'] (⟨((3 : Nat) : Int), ((1 : Nat) : Int)⟩ : Score) = [['R', 'Y', 'O', 'B']] :=
  pare_node _ _ 3 1 _ rfl (by decide) (by decide) rfl

lemma pe223 : parePossibilities E69 ['O', 'Y', 'G', 'R'] (⟨((3 : Nat) : Int), ((1 : Nat) : Int)⟩ : Score) = [['R', 'Y', 'O', 'G']] :=
  pare_node _ _ 3 1 _ rfl (by decide) (by decide) rfl

lemma pe224 : parePossibilities E35 ['B', 'Y', 'P', 'G'] (⟨((1 : Nat) : Int), ((1 : Nat) : Int)⟩ : Score) = E224 :=
  pare_node _ _ 1 1 _ rfl (by decide) (by decide) rfl

lemma pe225 : parePossibilities E119 ['G', 'P', 'Y', 'O'] (⟨((2 : Nat) : Int), ((0 : Nat) : Int)⟩ : Score) = [['R', 'Y', 'P', 'B']] :=
  pare_node _ _ 2 0 _ rfl (by decide) (by decide) rfl

lemma pe226 : parePossibilities E99 ['G', 'R', 'P', 'Y'] (⟨((3 : Nat) : Int), ((1 : Nat) : Int)⟩ : Score) = E226 :=
  pare_node _ _ 3 1 _ rfl (by decide) (by decide) rfl

lemma pe227 : parePossibilities E179 ['O', 'P', 'R', 'Y'] (⟨((4 : Nat) : Int), ((0 : Nat) : Int)⟩ : Score) = [['R', 'Y', 'P', 'O']] :=
  pare_node _ _ 4 0 _ rfl (by decide) (by decide) rfl

lemma pe228 : parePossibilities E148 ['R', 'B', 'G', 'P'] (⟨((3 : Nat) : Int), ((1 : Nat) : Int)⟩ : Score) = [['R', 'P', 'B', 'G']] :=
  pare_node _ _ 3 1 _ rfl (by decide) (by decide) rfl

lemma pe229 : parePossibilities E123 ['O', 'B', 'P', 'G'] (⟨((3 : Nat) : Int), ((0 : Nat) : Int)⟩ : Score) = E229 :=
  pare_node _ _ 3 0 _ rfl (by decide) (by decide) rfl

lemma pe230 : parePossibilities E158 ['R', 'B', 'P', 'Y'] (⟨((2 : Nat) : Int), ((2 : Nat) : Int)⟩ : Score) = [['R', 'P', 'B', 'Y']] :=
  pare_node _ _ 2 2 _ rfl (by decide) (by decide) rfl

lemma pe231 : parePossibilities E229 ['R', 'P', 'B', 'O'] (⟨((1 : Nat) : Int), ((2 : Nat) : Int)⟩ : Score) = [['R', 'P', 'G', 'B']] :=
  pare_node _ _ 1 2 _ rfl (by decide) (by decide) rfl

lemma pe232 : parePossibilities E128 ['O', 'B', 'Y', 'G'] (⟨((2 : Nat) : Int), ((0 : Nat) : Int)⟩ : Score) = E232 :=
  pare_node _ _ 2 0 _ rfl (by decide) (by decide) rfl

lemma pe233 : parePossibilities E72 ['G', 'Y', 'R', 'P'] (⟨((4 : Nat) : Int), ((0 : Nat) : Int)⟩ : Score) = E233 :=
  pare_node _ _ 4 0 _ rfl (by decide) (by decide) rfl

lemma pe234 : parePossibilities E187 ['R', 'B', 'O', 'P'] (⟨((2 : Nat) : Int), ((2 : Nat) : Int)⟩ : Score) = [['R', 'P', 'O', 'B']] :=
  pare_node _ _ 2 2 _ rfl (by decide) (by decide) rfl

lemma pe235 : parePossibilities E93 ['G', 'R', 'O', 'P'] (⟨((3 : Nat) : Int), ((1 : Nat) : Int)⟩ : Score) = [['R', 'P', 'O', 'G']] :=
  pare_node _ _ 3 1 _ rfl (by decide) (by decide) rfl

lemma pe236 : parePossibilities E114 ['G', 'P', 'O', 'Y'] (⟨((0 : Nat) : Int), ((3 : Nat) : Int)⟩ : Score) = [['R', 'P', 'O', 'Y']] :=
  pare_node _ _ 0 3 _ rfl (by decide) (by decide) rfl

lemma pe237 : parePossibilities E158 ['R', 'B', 'P', 'Y'] (⟨((3 : Nat) : Int), ((1 : Nat) : Int)⟩ : Score) = E237 :=
  pare_node _ _ 3 1 _ rfl (by decide) (by decide) rfl

lemma pe238 : parePossibilities E233 ['R', 'P', 'G', 'Y'] (⟨((2 : Nat) : Int), ((2 : Nat) : Int)⟩ : Score) = E238 :=
  pare_node _ _ 2 2 _ rfl (by decide) (by decide) rfl

lemma pe239 : parePossibilities E158 ['R', 'B', 'P', 'Y'] (⟨((2 : Nat) : Int), ((1 : Nat) : Int)⟩ : Score) = E239 :=
  pare_node _ _ 2 1 _ rfl (by decide) (by decide) rfl

lemma pe240 : parePossibilities E163 ['O', 'Y', 'G', 'B'] (⟨((3 : Nat) : Int), ((1 : Nat) : Int)⟩ : Score) = [['Y', 'B', 'G', 'O']] :=
  pare_node _ _ 3 1 _ rfl (by decide) (by decide) rfl

lemma pe241 : parePossibilities E101 ['G', 'Y', 'B', 'R'] (⟨((3 : Nat) : Int), ((1 : Nat) : Int)⟩ : Score) = [['Y', 'B', 'G', 'R']] :=
  pare_node _ _ 3 1 _ rfl (by decide) (by decide) rfl

lemma pe242 : parePossibilities E118 ['G', 'P', 'Y', 'B'] (⟨((4 : Nat) : Int), ((0 : Nat) : Int)⟩ : Score) = [['Y', 'B', 'G', 'P']] :=
  pare_node _ _ 4 0 _ rfl (by decide) (by decide) rfl

lemma pe243 : parePossibilities E199 ['R', 'G', 'Y', 'B'] (⟨((3 : Nat) : Int), ((0 : Nat) : Int)⟩ : Score) = [['Y', 'B', 'O', 'G']] :=
  pare_node _ _ 3 0 _ rfl (by decide) (by decide) rfl

lemma pe244 : parePossibilities E103 ['G', 'Y', 'O', 'R'] (⟨((1 : Nat) : Int), ((2 : Nat) : Int)⟩ : Score) = [['Y', 'B', 'O', 'R']] :=
  pare_node _ _ 1 2 _ rfl (by decide) (by decide) rfl

lemma pe245 : parePossibilities E46 ['B', 'Y', 'P', 'O'] (⟨((4 : Nat) : Int), ((0 : Nat) : Int)⟩ : Score) = [['Y', 'B', 'O', 'P']] :=
  pare_node _ _ 4 0 _ rfl (by decide) (by decide) rfl

lemma pe246 : parePossibilities E184 ['R', 'B', 'G', 'Y'] (⟨((3 : Nat) : Int), ((1 : Nat) : Int)⟩ : Score) = [['Y', 'B', 'R', 'G']] :=
  pare_node _ _ 3 1 _ rfl (by decide) (by decide) rfl

lemma pe247 : parePossibilities E94 ['G', 'R', 'Y', 'B'] (⟨((3 : Nat) : Int), ((0 : Nat) : Int)⟩ : Score) = [['Y', 'B', 'R', 'O']] :=
  pare_node _ _ 3 0 _ rfl (by decide) (by decide) rfl

lemma pe248 : parePossibilities E218 ['R', 'Y', 'B', 'P'] (⟨((3 : Nat) : Int), ((1 : Nat) : Int)⟩ : Score) = [['Y', 'B', 'R', 'P']] :=
  pare_node _ _ 3 1 _ rfl (by decide) (by decide) rfl

lemma pe249 : parePossibilities E173 ['O', 'P', 'B', 'Y'] (⟨((4 : Nat) : Int), ((0 : Nat) : Int)⟩ : Score) = [['Y', 'B', 'P', 'O']] :=
  pare_node _ _ 4 0 _ rfl (by decide) (by decide) rfl

lemma pe250 : parePossibilities E114 ['G', 'P', 'O', 'Y'] (⟨((2 : Nat) : Int), ((0 : Nat) : Int)⟩ : Score) = E250 :=
  pare_node _ _ 2 0 _ rfl (by decide) (by decide) rfl

lemma pe251 : parePossibilities E199 ['R', 'G', 'Y', 'B'] (⟨((2 : Nat) : Int), ((1 : Nat) : Int)⟩ : Score) = [['Y', 'G', 'B', 'O']] :=
  pare_node _ _ 2 1 _ rfl (by decide) (by decide) rfl

lemma pe252 : parePossibilities E38 ['B', 'Y', 'G', 'R'] (⟨((3 : Nat) : Int), ((1 : Nat) : Int)⟩ : Score) = [['Y', 'G', 'B', 'R']] :=
  pare_node _ _ 3 1 _ rfl (by decide) (by decide) rfl

lemma pe253 : parePossibilities E35 ['B', 'Y', 'P', 'G'] (⟨((4 : Nat) : Int), ((0 : Nat) : Int)⟩ : Score) = E253 :=
  pare_node _ _ 4 0 _ rfl (by decide) (by decide) rfl

lemma pe254 : parePossibilities E19 ['B', 'O', 'Y', 'R'] (⟨((3 : Nat) : Int), ((0 : Nat) : Int)⟩ : Score) = [['Y', 'G', 'O', 'B']] :=
  pare_node _ _ 3 0 _ rfl (by decide) (by decide) rfl

lemma pe255 : parePossibilities E41 ['B', 'Y', 'O', 'R'] (⟨((1 : Nat) : Int), ((2 : Nat) : Int)⟩ : Score) = [['Y', 'G', 'O', 'R']] :=
  pare_node _ _ 1 2 _ rfl (by decide) (by decide) rfl

lemma pe256 : parePossibilities E42 ['B', 'Y', 'O', 'P'] (⟨((1 : Nat) : Int), ((2 : Nat) : Int)⟩ : Score) = [['Y', 'G', 'O', 'P']] :=
  pare_node _ _ 1 2 _ rfl (by decide) (by decide) rfl

lemma pe257 : parePossibilities E37 ['B', 'Y', 'G', 'O'] (⟨((3 : Nat) : Int), ((0 : Nat) : Int)⟩ : Score) = [['Y', 'G', 'R', 'B']] :=
  pare_node _ _ 3 0 _ rfl (by decide) (by decide) rfl

lemma pe258 : parePossibilities E29 ['G', 'R', 'O', 'Y'] (⟨((4 : Nat) : Int), ((0 : Nat) : Int)⟩ : Score) = E258 :=
  pare_node _ _ 4 0 _ rfl (by decide) (by decide) rfl

lemma pe259 : parePossibilities E120 ['G', 'P', 'Y', 'R'] (⟨((4 : Nat) : Int), ((0 : Nat) : Int)⟩ : Score) = [['Y', 'G', 'R', 'P']] :=
  pare_node _ _ 4 0 _ rfl (by decide) (by decide) rfl

lemma pe260 : parePossibilities E170 ['O', 'Y', 'P', 'R'] (⟨((1 : Nat) : Int), ((1 : Nat) : Int)⟩ : Score) = [['Y', 'G', 'P', 'B']] :=
  pare_node _ _ 1 1 _ rfl (by decide) (by decide) rfl

lemma pe261 : parePossibilities E114 ['G', 'P', 'O', 'Y'] (⟨((4 : Nat) : Int), ((0 : Nat) : Int)⟩ : Score) = [['Y', 'G', 'P', 'O']] :=
  pare_node _ _ 4 0 _ rfl (by decide) (by decide) rfl

lemma pe262 : parePossibilities E47 ['B', 'Y', 'P', 'R'] (⟨((1 : Nat) : Int), ((2 : Nat) : Int)⟩ : Score) = [['Y', 'G', 'P', 'R']] :=
  pare_node _ _ 1 2 _ rfl (by decide) (by decide) rfl

lemma pe263 : parePossibilities E68 ['G', 'B', 'Y', 'O'] (⟨((4 : Nat) : Int), ((0 : Nat) : Int)⟩ : Score) = E263 :=
  pare_node _ _ 4 0 _ rfl (by decide) (by decide) rfl

lemma pe264 : parePossibilities E186 ['R', 'B', 'O', 'Y'] (⟨((4 : Nat) : Int), ((0 : Nat) : Int)⟩ : Score) = [['Y', 'O', 'B', 'R']] :=
  pare_node _ _ 4 0 _ rfl (by decide) (by decide) rfl

lemma pe265 : parePossibilities E168 ['O', 'Y', 'P', 'B'] (⟨((4 : Nat) : Int), ((0 : Nat) : Int)⟩ : Score) = [['Y', 'O', 'B', 'P']] :=
  pare_node _ _ 4 0 _ rfl (by decide) (by decide) rfl

lemma pe266 : parePossibilities E263 ['Y', 'O', 'B', 'G'] (⟨((2 : Nat) : Int), ((2 : Nat) : Int)⟩ : Score) = [['Y', 'O', 'G', 'B']] :=
  pare_node _ _ 2 2 _ rfl (by decide) (by decide) rfl

lemma pe267 : parePossibilities E258 ['Y', 'G', 'R', 'O'] (⟨((3 : Nat) : Int), ((1 : Nat) : Int)⟩ : Score) = [['Y', 'O', 'G', 'R']] :=
  pare_node _ _ 3 1 _ rfl (by decide) (by decide) rfl

lemma pe268 : parePossibilities E78 ['G', 'B', 'P', 'Y'] (⟨((3 : Nat) : Int), ((0 : Nat) : Int)⟩ : Score) = E268 :=
  pare_node _ _ 3 0 _ rfl (by decide) (by decide) rfl

lemma pe269 : parePossibilities E105 ['G', 'Y', 'R', 'B'] (⟨((1 : Nat) : Int), ((2 : Nat) : Int)⟩ : Score) = [['Y', 'O', 'R', 'B']] :=
  pare_node _ _ 1 2 _ rfl (by decide) (by decide) rfl

lemma pe270 : parePossibilities E106 ['G', 'Y', 'R', 'O'] (⟨((3 : Nat) : Int), ((1 : Nat) : Int)⟩ : Score) = [['Y', 'O', 'R', 'G']] :=
  pare_node _ _ 3 1 _ rfl (by decide) (by decide) rfl

lemma pe271 : parePossibilities E73 ['G', 'O', 'Y', 'P'] (⟨((1 : Nat) : Int), ((2 : Nat) : Int)⟩ : Score) = [['Y', 'O', 'R', 'P']] :=
  pare_node _ _ 1 2 _ rfl (by decide) (by decide) rfl

lemma pe272 : parePossibilities E180 ['O', 'P', 'Y', 'B'] (⟨((3 : Nat) : Int), ((1 : Nat) : Int)⟩ : Score) = E272 :=
  pare_node _ _ 3 1 _ rfl (by decide) (by decide) rfl

lemma pe273 : parePossibilities E176 ['O', 'P', 'G', 'Y'] (⟨((4 : Nat) : Int), ((0 : Nat) : Int)⟩ : Score) = [['Y', 'O', 'P', 'G']] :=
  pare_node _ _ 4 0 _ rfl (by decide) (by decide) rfl

lemma pe274 : parePossibilities E224 ['R', 'Y', 'O', 'P'] (⟨((4 : Nat) : Int), ((0 : Nat) : Int)⟩ : Score) = [['Y', 'O', 'P', 'R']] :=
  pare_node _ _ 4 0 _ rfl (by decide) (by decide) rfl

lemma pe275 : parePossibilities E216 ['R', 'Y', 'B', 'G'] (⟨((2 : Nat) : Int), ((2 : Nat) : Int)⟩ : Score) = [['Y', 'R', 'B', 'G']] :=
  pare_node _ _ 2 2 _ rfl (by decide) (by decide) rfl

lemma pe276 : parePossibilities E217 ['R', 'Y', 'B', 'O'] (⟨((2 : Nat) : Int), ((2 : Nat) : Int)⟩ : Score) = [['Y', 'R', 'B', 'O']] :=
  pare_node _ _ 2 2 _ rfl (by decide) (by decide) rfl

lemma pe277 : parePossibilities E268 ['Y', 'O', 'G', 'P'] (⟨((0 : Nat) : Int), ((2 : Nat) : Int)⟩ : Score) = [['Y', 'R', 'B', 'P']] :=
  pare_node _ _ 0 2 _ rfl (by decide) (by decide) rfl

lemma pe278 : parePossibilities E217 ['R', 'Y', 'B', 'O'] (⟨((3 : Nat) : Int), ((0 : Nat) : Int)⟩ : Score) = [['Y', 'R', 'G', 'B']] :=
  pare_node _ _ 3 0 _ rfl (by decide) (by decide) rfl

lemma pe279 : parePossibilities E154 ['O', 'R', 'Y', 'G'] (⟨((3 : Nat) : Int), ((1 : Nat) : Int)⟩ : Score) = [['Y', 'R', 'G', 'O']] :=
  pare_node _ _ 3 1 _ rfl (by decide) (by decide) rfl

lemma pe280 : parePossibilities E226 ['R', 'Y', 'P', 'G'] (⟨((4 : Nat) : Int), ((0 : Nat) : Int)⟩ : Score) = [['Y', 'R', 'G', 'P']] :=
  pare_node _ _ 4 0 _ rfl (by decide) (by decide) rfl

lemma pe281 : parePossibilities E129 ['O', 'Y', 'B', 'R'] (⟨((4 : Nat) : Int), ((0 : Nat) : Int)⟩ : Score) = [['Y', 'R', 'O', 'B']] :=
  pare_node _ _ 4 0 _ rfl (by decide) (by decide) rfl

lemma pe282 : parePossibilities E200 ['R', 'G', 'Y', 'O'] (⟨((4 : Nat) : Int), ((0 : Nat) : Int)⟩ : Score) = [['Y', 'R', 'O', 'G']] :=
  pare_node _ _ 4 0 _ rfl (by decide) (by decide) rfl

lemma pe283 : parePossibilities E182 ['O', 'P', 'Y', 'R'] (⟨((4 : Nat) : Int), ((0 : Nat) : Int)⟩ : Score) = [['Y', 'R', 'O', 'P']] :=
  pare_node _ _ 4 0 _ rfl (by decide) (by decide) rfl

lemma pe284 : parePossibilities E237 ['R', 'P', 'Y', 'B'] (⟨((3 : Nat) : Int), ((1 : Nat) : Int)⟩ : Score) = [['Y', 'R', 'P', 'B']] :=
  pare_node _ _ 3 1 _ rfl (by decide) (by decide) rfl

lemma pe285 : parePossibilities E233 ['R', 'P', 'G', 'Y'] (⟨((4 : Nat) : Int), ((0 : Nat) : Int)⟩ : Score) = E285 :=
  pare_node _ _ 4 0 _ rfl (by decide) (by decide) rfl

lemma pe286 : parePossibilities E239 ['R', 'P', 'Y', 'O'] (⟨((3 : Nat) : Int), ((1 : Nat) : Int)⟩ : Score) = [['Y', 'R', 'P', 'O']] :=
  pare_node _ _ 3 1 _ rfl (by decide) (by decide) rfl

lemma pe287 : parePossibilities E158 ['R', 'B', 'P', 'Y'] (⟨((3 : Nat) : Int), ((0 : Nat) : Int)⟩ : Score) = E287 :=
  pare_node _ _ 3 0 _ rfl (by decide) (by decide) rfl

lemma pe288 : parePossibilities E133 ['O', 'B', 'P', 'Y'] (⟨((4 : Nat) : Int), ((0 : Nat) : Int)⟩ : Score) = E288 :=
  pare_node _ _ 4 0 _ rfl (by decide) (by decide) rfl

lemma pe289 : parePossibilities E114 ['G', 'P', 'O', 'Y'] (⟨((1 : Nat) : Int), ((1 : Nat) : Int)⟩ : Score) = [['Y', 'P', 'B', 'R']] :=
  pare_node _ _ 1 1 _ rfl (by decide) (by decide) rfl

lemma pe290 : parePossibilities E287 ['Y', 'P', 'B', 'G'] (⟨((2 : Nat) : Int), ((2 : Nat) : Int)⟩ : Score) = [['Y', 'P', 'G', 'B']] :=
  pare_node _ _ 2 2 _ rfl (by decide) (by decide) rfl

lemma pe291 : parePossibilities E181 ['O', 'P', 'Y', 'G'] (⟨((3 : Nat) : Int), ((1 : Nat) : Int)⟩ : Score) = [['Y', 'P', 'G', 'O']] :=
  pare_node _ _ 3 1 _ rfl (by decide) (by decide) rfl

lemma pe292 : parePossibilities E204 ['R', 'G', 'P', 'Y'] (⟨((4 : Nat) : Int), ((0 : Nat) : Int)⟩ : Score) = [['Y', 'P', 'G', 'R']] :=
  pare_node _ _ 4 0 _ rfl (by decide) (by decide) rfl

lemma pe293 : parePossibilities E20 ['B', 'O', 'Y', 'P'] (⟨((4 : Nat) : Int), ((0 : Nat) : Int)⟩ : Score) = E293 :=
  pare_node _ _ 4 0 _ rfl (by decide) (by decide) rfl

lemma pe294 : parePossibilities E114 ['G', 'P', 'O', 'Y'] (⟨((2 : Nat) : Int), ((2 : Nat) : Int)⟩ : Score) = [['Y', 'P', 'O', 'G']] :=
  pare_node _ _ 2 2 _ rfl (by decide) (by decide) rfl

lemma pe295 : parePossibilities E8 ['B', 'G', 'Y', 'P'] (⟨((2 : Nat) : Int), ((0 : Nat) : Int)⟩ : Score) = E295 :=
  pare_node _ _ 2 0 _ rfl (by decide) (by decide) rfl

lemma pe296 : parePossibilities E268 ['Y', 'O', 'G', 'P'] (⟨((1 : Nat) : Int), ((1 : Nat) : Int)⟩ : Score) = [['Y', 'P', 'R', 'B']] :=
  pare_node _ _ 1 1 _ rfl (by decide) (by decide) rfl

lemma pe297 : parePossibilities E99 ['G', 'R', 'P', 'Y'] (⟨((4 : Nat) : Int), ((0 : Nat) : Int)⟩ : Score) = [['Y', 'P', 'R', 'G']] :=
  pare_node _ _ 4 0 _ rfl (by decide) (by decide) rfl

lemma pe298 : parePossibilities E155 ['O', 'R', 'Y', 'P'] (⟨((4 : Nat) : Int), ((0 : Nat) : Int)⟩ : Score) = [['Y', 'P', 'R', 'O']] :=
  pare_node _ _ 4 0 _ rfl (by decide) (by decide) rfl

lemma pe299 : parePossibilities E174 ['O', 'P', 'G', 'B'] (⟨((3 : Nat) : Int), ((1 : Nat) : Int)⟩ : Score) = [['P', 'B', 'G', 'O']] :=
  pare_node _ _ 3 1 _ rfl (by decide) (by decide) rfl

lemma pe300 : parePossibilities E195 ['R', 'G', 'B', 'P'] (⟨((4 : Nat) : Int), ((0 : Nat) : Int)⟩ : Score) = [['P', 'B', 'G', 'R']] :=
  pare_node _ _ 4 0 _ rfl (by decide) (by decide) rfl

lemma pe301 : parePossibilities E159 ['Y', 'B', 'P', 'G'] (⟨((3 : Nat) : Int), ((1 : Nat) : Int)⟩ : Score) = [['P', 'B', 'G', 'Y']] :=
  pare_node _ _ 3 1 _ rfl (by decide) (by decide) rfl

lemma pe302 : parePossibilities E143 ['O', 'G', 'P', 'B'] (⟨((4 : Nat) : Int), ((0 : Nat) : Int)⟩ : Score) = [['P', 'B', 'O', 'G']] :=
  pare_node _ _ 4 0 _ rfl (by decide) (by decide) rfl

lemma pe303 : parePossibilities E113 ['G', 'P', 'O', 'R'] (⟨((1 : Nat) : Int), ((2 : Nat) : Int)⟩ : Score) = [['P', 'B', 'O', 'R']] :=
  pare_node _ _ 1 2 _ rfl (by decide) (by decide) rfl

lemma pe304 : parePossibilities E293 ['Y', 'P', 'O', 'B'] (⟨((3 : Nat) : Int), ((1 : Nat) : Int)⟩ : Score) = [['P', 'B', 'O', 'Y']] :=
  pare_node _ _ 3 1 _ rfl (by decide) (by decide) rfl

lemma pe305 : parePossibilities E76 ['G', 'B', 'P', 'O'] (⟨((2 : Nat) : Int), ((1 : Nat) : Int)⟩ : Score) = [['P', 'B', 'R', 'G']] :=
  pare_node _ _ 2 1 _ rfl (by decide) (by decide) rfl

lemma pe306 : parePossibilities E177 ['O', 'P', 'R', 'B'] (⟨((3 : Nat) : Int), ((1 : Nat) : Int)⟩ : Score) = [['P', 'B', 'R', 'O']] :=
  pare_node _ _ 3 1 _ rfl (by decide) (by decide) rfl

lemma pe307 : parePossibilities E78 ['G', 'B', 'P', 'Y'] (⟨((1 : Nat) : Int), ((2 : Nat) : Int)⟩ : Score) = [['P', 'B', 'R', 'Y']] :=
  pare_node _ _ 1 2 _ rfl (by decide) (by decide) rfl

lemma pe308 : parePossibilities E239 ['R', 'P', 'Y', 'O'] (⟨((1 : Nat) : Int), ((1 : Nat) : Int)⟩ : Score) = [['P', 'B', 'Y', 'G']] :=
  pare_node _ _ 1 1 _ rfl (by decide) (by decide) rfl

lemma pe309 : parePossibilities E272 ['Y', 'O', 'P', 'B'] (⟨((4 : Nat) : Int), ((0 : Nat) : Int)⟩ : Score) = [['P', 'B', 'Y', 'O']] :=
  pare_node _ _ 4 0 _ rfl (by decide) (by decide) rfl

lemma pe310 : parePossibilities E35 ['B', 'Y', 'P', 'G'] (⟨((3 : Nat) : Int), ((0 : Nat) : Int)⟩ : Score) = E310 :=
  pare_node _ _ 3 0 _ rfl (by decide) (by decide) rfl

lemma pe311 : parePossibilities E136 ['O', 'G', 'B', 'P'] (⟨((2 : Nat) : Int), ((2 : Nat) : Int)⟩ : Score) = [['P', 'G', 'B', 'O']] :=
  pare_node _ _ 2 2 _ rfl (by decide) (by decide) rfl

lemma pe312 : parePossibilities E19 ['B', 'O', 'Y', 'R'] (⟨((1 : Nat) : Int), ((1 : Nat) : Int)⟩ : Score) = [['P', 'G', 'B', 'R']] :=
  pare_node _ _ 1 1 _ rfl (by decide) (by decide) rfl

lemma pe313 : parePossibilities E114 ['G', 'P', 'O', 'Y'] (⟨((2 : Nat) : Int), ((1 : Nat) : Int)⟩ : Score) = [['P', 'G', 'B', 'Y']] :=
  pare_node _ _ 2 1 _ rfl (by decide) (by decide) rfl

lemma pe314 : parePossibilities E198 ['R', 'G', 'O', 'P'] (⟨((1 : Nat) : Int), ((2 : Nat) : Int)⟩ : Score) = [['P', 'G', 'O', 'B']] :=
  pare_node _ _ 1 2 _ rfl (by decide) (by decide) rfl

lemma pe315 : parePossibilities E52 ['B', 'P', 'O', 'R'] (⟨((1 : Nat) : Int), ((2 : Nat) : Int)⟩ : Score) = [['P', 'G', 'O', 'R']] :=
  pare_node _ _ 1 2 _ rfl (by decide) (by decide) rfl

lemma pe316 : parePossibilities E47 ['B', 'Y', 'P', 'R'] (⟨((2 : Nat) : Int), ((0 : Nat) : Int)⟩ : Score) = [['P', 'G', 'O', 'Y']] :=
  pare_node _ _ 2 0 _ rfl (by decide) (by decide) rfl

lemma pe317 : parePossibilities E26 ['B', 'R', 'G', 'P'] (⟨((4 : Nat) : Int), ((0 : Nat) : Int)⟩ : Score) = [['P', 'G', 'R', 'B']] :=
  pare_node _ _ 4 0 _ rfl (by decide) (by decide) rfl

lemma pe318 : parePossibilities E87 ['G', 'O', 'P', 'R'] (⟨((4 : Nat) : Int), ((0 : Nat) : Int)⟩ : Score) = [['P', 'G', 'R', 'O']] :=
  pare_node _ _ 4 0 _ rfl (by decide) (by decide) rfl

lemma pe319 : parePossibilities E109 ['G', 'Y', 'P', 'R'] (⟨((4 : Nat) : Int), ((0 : Nat) : Int)⟩ : Score) = [['P', 'G', 'R', 'Y']] :=
  pare_node _ _ 4 0 _ rfl (by decide) (by decide) rfl

lemma pe320 : parePossibilities E253 ['Y', 'G', 'B', 'P'] (⟨((3 : Nat) : Int), ((1 : Nat) : Int)⟩ : Score) = [['P', 'G', 'Y', 'B']] :=
  pare_node _ _ 3 1 _ rfl (by decide) (by decide) rfl

lemma pe321 : parePossibilities E310 ['P', 'B', 'Y', 'R'] (⟨((0 : Nat) : Int), ((2 : Nat) : Int)⟩ : Score) = [['P', 'G', 'Y', 'O']] :=
  pare_node _ _ 0 2 _ rfl (by decide) (by decide) rfl

lemma pe322 : parePossibilities E42 ['B', 'Y', 'O', 'P'] (⟨((2 : Nat) : Int), ((0 : Nat) : Int)⟩ : Score) = [['P', 'G', 'Y', 'R']] :=
  pare_node _ _ 2 0 _ rfl (by decide) (by decide) rfl

lemma pe323 : parePossibilities E91 ['G', 'R', 'B', 'P'] (⟨((2 : Nat) : Int), ((1 : Nat) : Int)⟩ : Score) = [['P', 'O', 'B', 'G']] :=
  pare_node _ _ 2 1 _ rfl (by decide) (by decide) rfl

lemma pe324 : parePossibilities E29 ['G', 'R', 'O', 'Y'] (⟨((2 : Nat) : Int), ((0 : Nat) : Int)⟩ : Score) = [['P', 'O', 'B', 'R']] :=
  pare_node _ _ 2 0 _ rfl (by decide) (by decide) rfl

lemma pe325 : parePossibilities E180 ['O', 'P', 'Y', 'B'] (⟨((4 : Nat) : Int), ((0 : Nat) : Int)⟩ : Score) = [['P', 'O', 'B', 'Y']] :=
  pare_node _ _ 4 0 _ rfl (by decide) (by decide) rfl

lemma pe326 : parePossibilities E110 ['G', 'P', 'B', 'O'] (⟨((4 : Nat) : Int), ((0 : Nat) : Int)⟩ : Score) = [['P', 'O', 'G', 'B']] :=
  pare_node _ _ 4 0 _ rfl (by decide) (by decide) rfl

lemma pe327 : parePossibilities E139 ['O', 'G', 'R', 'P'] (⟨((4 : Nat) : Int), ((0 : Nat) : Int)⟩ : Score) = [['P', 'O', 'G', 'R']] :=
  pare_node _ _ 4 0 _ rfl (by decide) (by decide) rfl

lemma pe328 : parePossibilities E176 ['O', 'P', 'G', 'Y'] (⟨((2 : Nat) : Int), ((2 : Nat) : Int)⟩ : Score) = [['P', 'O', 'G', 'Y']] :=
  pare_node _ _ 2 2 _ rfl (by decide) (by decide) rfl

lemma pe329 : parePossibilities E86 ['G', 'O', 'P', 'B'] (⟨((1 : Nat) : Int), ((2 : Nat) : Int)⟩ : Score) = [['P', 'O', 'R', 'B']] :=
  pare_node _ _ 1 2 _ rfl (by decide) (by decide) rfl

lemma pe330 : parePossibilities E116 ['G', 'P', 'R', 'O'] (⟨((3 : Nat) : Int), ((1 : Nat) : Int)⟩ : Score) = [['P', 'O', 'R', 'G']] :=
  pare_node _ _ 3 1 _ rfl (by decide) (by decide) rfl

lemma pe331 : parePossibilities E179 ['O', 'P', 'R', 'Y'] (⟨((2 : Nat) : Int), ((2 : Nat) : Int)⟩ : Score) = [['P', 'O', 'R', 'Y']] :=
  pare_node _ _ 2 2 _ rfl (by decide) (by decide) rfl

lemma pe332 : parePossibilities E288 ['Y', 'P', 'B', 'O'] (⟨((4 : Nat) : Int), ((0 : Nat) : Int)⟩ : Score) = [['P', 'O', 'Y', 'B']] :=
  pare_node _ _ 4 0 _ rfl (by decide) (by decide) rfl

lemma pe333 : parePossibilities E181 ['O', 'P', 'Y', 'G'] (⟨((2 : Nat) : Int), ((2 : Nat) : Int)⟩ : Score) = [['P', 'O', 'Y', 'G']] :=
  pare_node _ _ 2 2 _ rfl (by decide) (by decide) rfl

lemma pe334 : parePossibilities E39 ['B', 'Y', 'G', 'P'] (⟨((2 : Nat) : Int), ((0 : Nat) : Int)⟩ : Score) = [['P', 'O', 'Y', 'R']] :=
  pare_node _ _ 2 0 _ rfl (by decide) (by decide) rfl

lemma pe335 : parePossibilities E148 ['R', 'B', 'G', 'P'] (⟨((4 : Nat) : Int), ((0 : Nat) : Int)⟩ : Score) = [['P', 'R', 'B', 'G']] :=
  pare_node _ _ 4 0 _ rfl (by decide) (by decide) rfl

lemma pe336 : parePossibilities E229 ['R', 'P', 'B', 'O'] (⟨((2 : Nat) : Int), ((2 : Nat) : Int)⟩ : Score) = [['P', 'R', 'B', 'O']] :=
  pare_node _ _ 2 2 _ rfl (by decide) (by decide) rfl

lemma pe337 : parePossibilities E237 ['R', 'P', 'Y', 'B'] (⟨((4 : Nat) : Int), ((0 : Nat) : Int)⟩ : Score) = [['P', 'R', 'B', 'Y']] :=
  pare_node _ _ 4 0 _ rfl (by decide) (by decide) rfl

lemma pe338 : parePossibilities E229 ['R', 'P', 'B', 'O'] (⟨((3 : Nat) : Int), ((0 : Nat) : Int)⟩ : Score) = [['P', 'R', 'G', 'B']] :=
  pare_node _ _ 3 0 _ rfl (by decide) (by decide) rfl

lemma pe339 : parePossibilities E232 ['R', 'P', 'G', 'O'] (⟨((2 : Nat) : Int), ((2 : Nat) : Int)⟩ : Score) = [['P', 'R', 'G', 'O']] :=
  pare_node _ _ 2 2 _ rfl (by decide) (by decide) rfl

lemma pe340 : parePossibilities E238 ['R', 'P', 'Y', 'G'] (⟨((4 : Nat) : Int), ((0 : Nat) : Int)⟩ : Score) = [['P', 'R', 'G', 'Y']] :=
  pare_node _ _ 4 0 _ rfl (by decide) (by decide) rfl

lemma pe341 : parePossibilities E187 ['R', 'B', 'O', 'P'] (⟨((3 : Nat) : Int), ((1 : Nat) : Int)⟩ : Score) = [['P', 'R', 'O', 'B']] :=
  pare_node _ _ 3 1 _ rfl (by decide) (by decide) rfl

lemma pe342 : parePossibilities E77 ['G', 'B', 'P', 'R'] (⟨((3 : Nat) : Int), ((0 : Nat) : Int)⟩ : Score) = [['P', 'R', 'O', 'G']] :=
  pare_node _ _ 3 0 _ rfl (by decide) (by decide) rfl

lemma pe343 : parePossibilities E114 ['G', 'P', 'O', 'Y'] (⟨((1 : Nat) : Int), ((2 : Nat) : Int)⟩ : Score) = [['P', 'R', 'O', 'Y']] :=
  pare_node _ _ 1 2 _ rfl (by decide) (by decide) rfl

lemma pe344 : parePossibilities E158 ['R', 'B', 'P', 'Y'] (⟨((4 : Nat) : Int), ((0 : Nat) : Int)⟩ : Score) = [['P', 'R', 'Y', 'B']] :=
  pare_node _ _ 4 0 _ rfl (by decide) (by decide) rfl

lemma pe345 : parePossibilities E285 ['Y', 'R', 'P', 'G'] (⟨((2 : Nat) : Int), ((2 : Nat) : Int)⟩ : Score) = [['P', 'R', 'Y', 'G']] :=
  pare_node _ _ 2 2 _ rfl (by decide) (by decide) rfl

lemma pe346 : parePossibilities E287 ['Y', 'P', 'B', 'G'] (⟨((2 : Nat) : Int), ((0 : Nat) : Int)⟩ : Score) = [['P', 'R', 'Y', 'O']] :=
  pare_node _ _ 2 0 _ rfl (by decide) (by decide) rfl

lemma pe347 : parePossibilities E78 ['G', 'B', 'P', 'Y'] (⟨((4 : Nat) : Int), ((0 : Nat) : Int)⟩ : Score) = E347 :=
  pare_node _ _ 4 0 _ rfl (by decide) (by decide) rfl

lemma pe348 : parePossibilities E131 ['O', 'B', 'Y', 'P'] (⟨((4 : Nat) : Int), ((0 : Nat) : Int)⟩ : Score) = [['P', 'Y', 'B', 'O']] :=
  pare_node _ _ 4 0 _ rfl (by decide) (by decide) rfl

lemma pe349 : parePossibilities E250 ['Y', 'B', 'P', 'R'] (⟨((3 : Nat) : Int), ((1 : Nat) : Int)⟩ : Score) = [['P', 'Y', 'B', 'R']] :=
  pare_node _ _ 3 1 _ rfl (by decide) (by decide) rfl

lemma pe350 : parePossibilities E347 ['P', 'Y', 'B', 'G'] (⟨((2 : Nat) : Int), ((2 : Nat) : Int)⟩ : Score) = [['P', 'Y', 'G', 'B']] :=
  pare_node _ _ 2 2 _ rfl (by decide) (by decide) rfl

lemma pe351 : parePossibilities E268 ['Y', 'O', 'G', 'P'] (⟨((3 : Nat) : Int), ((1 : Nat) : Int)⟩ : Score) = [['P', 'Y', 'G', 'O']] :=
  pare_node _ _ 3 1 _ rfl (by decide) (by decide) rfl

lemma pe352 : parePossibilities E109 ['G', 'Y', 'P', 'R'] (⟨((2 : Nat) : Int), ((2 : Nat) : Int)⟩ : Score) = [['P', 'Y', 'G', 'R']] :=
  pare_node _ _ 2 2 _ rfl (by decide) (by decide) rfl

lemma pe353 : parePossibilities E293 ['Y', 'P', 'O', 'B'] (⟨((2 : Nat) : Int), ((2 : Nat) : Int)⟩ : Score) = [['P', 'Y', 'O', 'B']] :=
  pare_node _ _ 2 2 _ rfl (by decide) (by decide) rfl

lemma pe354 : parePossibilities E145 ['O', 'G', 'P', 'Y'] (⟨((4 : Nat) : Int), ((0 : Nat) : Int)⟩ : Score) = [['P', 'Y', 'O', 'G']] :=
  pare_node _ _ 4 0 _ rfl (by decide) (by decide) rfl

lemma pe355 : parePossibilities E295 ['Y', 'P', 'O', 'R'] (⟨((2 : Nat) : Int), ((2 : Nat) : Int)⟩ : Score) = [['P', 'Y', 'O', 'R']] :=
  pare_node _ _ 2 2 _ rfl (by decide) (by decide) rfl

lemma pe356 : parePossibilities E73 ['G', 'O', 'Y', 'P'] (⟨((2 : Nat) : Int), ((0 : Nat) : Int)⟩ : Score) = [['P', 'Y', 'R', 'B']] :=
  pare_node _ _ 2 0 _ rfl (by decide) (by decide) rfl

lemma pe357 : parePossibilities E96 ['G', 'R', 'Y', 'P'] (⟨((4 : Nat) : Int), ((0 : Nat) : Int)⟩ : Score) = [['P', 'Y', 'R', 'G']] :=
  pare_node _ _ 4 0 _ rfl (by decide) (by decide) rfl

lemma pe358 : parePossibilities E73 ['G', 'O', 'Y', 'P'] (⟨((3 : Nat) : Int), ((0 : Nat) : Int)⟩ : Score) = [['P', 'Y', 'R', 'O']] :=
  pare_node _ _ 3 0 _ rfl (by decide) (by decide) rfl

lemma rs0 : loopRun (honest ['B', 'G', 'O', 'R']) 7 none S0 [] =
    (RunResult.solved ['B', 'G', 'O', 'R'] 1, [['B', 'G', 'O', 'R']]) := by
  refine (loopRun_none' (honest ['B', 'G', 'O', 'R']) 7 S0 []).trans ?_
  exact loopRun_last ['B', 'G', 'O', 'R'] 7 6 S0 [] rfl rfl (by decide)

lemma rs1 : loopRun (honest ['B', 'G', 'O', 'Y']) 7 none S0 [] =
    (RunResult.solved ['B', 'G', 'O', 'Y'] 2, [['B', 'G', 'O', 'R'], ['B', 'G', 'O', 'Y']]) := by
  refine (loopRun_none' (honest ['B', 'G', 'O', 'Y']) 7 S0 []).trans ?_
  refine (loopRun_step ['B', 'G', 'O', 'Y'] 7 6 ['B', 'G', 'O', 'R'] S0 [] 0 3 E0 ['B', 'G', 'O', 'Y'] [['B', 'G', 'O', 'R']] rfl ((calc_eq_fastP ['B', 'G', 'O', 'Y'] ['B', 'G', 'O', 'R'] (by decide) (by decide)).trans (by decide)) (by decide) pe0 rfl nx0 (by decide) (by decide) (by decide)).trans ?_
  refine Eq.trans (step_lift ['B', 'G', 'O', 'R'] (?_ : loopRun (honest ['B', 'G', 'O', 'Y']) 6 (some ['B', 'G', 'O', 'Y']) E0 [['B', 'G', 'O', 'R']] = (RunResult.solved ['B', 'G', 'O', 'Y'] 2, [['B', 'G', 'O', 'Y']]))) rfl
  exact loopRun_last ['B', 'G', 'O', 'Y'] 6 5 E0 [['B', 'G', 'O', 'R']] rfl rfl (by decide)

lemma rs2 : loopRun (honest ['B', 'G', 'O', 'P']) 7 none S0 [] =
    (RunResult.solved ['B', 'G', 'O', 'P'] 3, [['B', 'G', 'O', 'R'], ['B', 'G', 'O', 'Y'], ['B', 'G', 'O', 'P']]) := by
  refine (loopRun_none' (honest ['B', 'G', 'O', 'P']) 7 S0 []).trans ?_
  refine (loopRun_step ['B', 'G', 'O', 'P'] 7 6 ['B', 'G', 'O', 'R'] S0 [] 0 3 E0 ['B', 'G', 'O', 'Y'] [['B', 'G', 'O', 'R']] rfl ((calc_eq_fastP ['B', 'G', 'O', 'P'] ['B', 'G', 'O', 'R'] (by decide) (by decide)).trans (by decide)) (by decide) pe0 rfl nx0 (by decide) (by decide) (by decide)).trans ?_
  refine Eq.trans (step_lift ['B', 'G', 'O', 'R'] (?_ : loopRun (honest ['B', 'G', 'O', 'P']) 6 (some ['B', 'G', 'O', 'Y']) E0 [['B', 'G', 'O', 'R']] = (RunResult.solved ['B', 'G', 'O', 'P'] 3, [['B', 'G', 'O', 'Y'], ['B', 'G', 'O', 'P']]))) rfl
  refine (loopRun_step ['B', 'G', 'O', 'P'] 6 5 ['B', 'G', 'O', 'Y'] E0 [['B', 'G', 'O', 'R']] 0 3 [['B', 'G', 'O', 'P']] ['B', 'G', 'O', 'P'] [['B', 'G', 'O', 'R'], ['B', 'G', 'O', 'Y']] rfl ((calc_eq_fastP ['B', 'G', 'O', 'P'] ['B', 'G', 'O', 'Y'] (by decide) (by decide)).trans (by decide)) (by decide) pe1 rfl (findNextGuess_singleton ['B', 'G', 'O', 'P'] [['B', 'G', 'O', 'R'], ['B', 'G', 'O', 'Y']]) (by decide) (by decide) (by decide)).trans ?_
  refine Eq.trans (step_lift ['B', 'G', 'O', 'Y'] (?_ : loopRun (honest ['B', 'G', 'O', 'P']) 5 (some ['B', 'G', 'O', 'P']) [['B', 'G', 'O', 'P']] [['B', 'G', 'O', 'R'], ['B', 'G', 'O', 'Y']] = (RunResult.solved ['B', 'G', 'O', 'P'] 3, [['B', 'G', 'O', 'P']]))) rfl
  exact loopRun_last ['B', 'G', 'O', 'P'] 5 4 [['B', 'G', 'O', 'P']] [['B', 'G', 'O', 'R'], ['B', 'G', 'O', 'Y']] rfl rfl (by decide)

lemma rs3 : loopRun (honest ['B', 'G', 'R', 'O']) 7 none S0 [] =
    (RunResult.solved ['B', 'G', 'R', 'O'] 2, [['B', 'G', 'O', 'R'], ['B', 'G', 'R', 'O']]) := by
  refine (loopRun_none' (honest ['B', 'G', 'R', 'O']) 7 S0 []).trans ?_
  refine (loopRun_step ['B', 'G', 'R', 'O'] 7 6 ['B', 'G', 'O', 'R'] S0 [] 2 2 E2 ['B', 'G', 'R', 'O'] [['B', 'G', 'O', 'R']] rfl ((calc_eq_fastP ['B', 'G', 'R', 'O'] ['B', 'G', 'O', 'R'] (by decide) (by decide)).trans (by decide)) (by decide) pe2 rfl nx2 (by decide) (by decide) (by decide)).trans ?_
  refine Eq.trans (step_lift ['B', 'G', 'O', 'R'] (?_ : loopRun (honest ['B', 'G', 'R', 'O']) 6 (some ['B', 'G', 'R', 'O']) E2 [['B', 'G', 'O', 'R']] = (RunResult.solved ['B', 'G', 'R', 'O'] 2, [['B', 'G', 'R', 'O']]))) rfl
  exact loopRun_last ['B', 'G', 'R', 'O'] 6 5 E2 [['B', 'G', 'O', 'R']] rfl rfl (by decide)

lemma rs4 : loopRun (honest ['B', 'G', 'R', 'Y']) 7 none S0 [] =
    (RunResult.solved ['B', 'G', 'R', 'Y'] 2, [['B', 'G', 'O', 'R'], ['B', 'G', 'R', 'Y']]) := by
  refine (loopRun_none' (honest ['B', 'G', 'R', 'Y']) 7 S0 []).trans ?_
  refine (loopRun_step ['B', 'G', 'R', 'Y'] 7 6 ['B', 'G', 'O', 'R'] S0 [] 1 2 E3 ['B', 'G', 'R', 'Y'] [['B', 'G', 'O', 'R']] rfl ((calc_eq_fastP ['B', 'G', 'R', 'Y'] ['B', 'G', 'O', 'R'] (by decide) (by decide)).trans (by decide)) (by decide) pe3 rfl nx3 (by decide) (by decide) (by decide)).trans ?_
  refine Eq.trans (step_lift ['B', 'G', 'O', 'R'] (?_ : loopRun (honest ['B', 'G', 'R', 'Y']) 6 (some ['B', 'G', 'R', 'Y']) E3 [['B', 'G', 'O', 'R']] = (RunResult.solved ['B', 'G', 'R', 'Y'] 2, [['B', 'G', 'R', 'Y']]))) rfl
  exact loopRun_last ['B', 'G', 'R', 'Y'] 6 5 E3 [['B', 'G', 'O', 'R']] rfl rfl (by decide)

lemma rs5 : loopRun (honest ['B', 'G', 'R', 'P']) 7 none S0 [] =
    (RunResult.solved ['B', 'G', 'R', 'P'] 3, [['B', 'G', 'O', 'R'], ['B', 'G', 'R', 'Y'], ['B', 'G', 'R', 'P']]) := by
  refine (loopRun_none' (honest ['B', 'G', 'R', 'P']) 7 S0 []).trans ?_
  refine (loopRun_step ['B', 'G', 'R', 'P'] 7 6 ['B', 'G', 'O', 'R'] S0 [] 1 2 E3 ['B', 'G', 'R', 'Y'] [['B', 'G', 'O', 'R']] rfl ((calc_eq_fastP ['B', 'G', 'R', 'P'] ['B', 'G', 'O', 'R'] (by decide) (by decide)).trans (by decide)) (by decide) pe3 rfl nx3 (by decide) (by decide) (by decide)).trans ?_
  refine Eq.trans (step_lift ['B', 'G', 'O', 'R'] (?_ : loopRun (honest ['B', 'G', 'R', 'P']) 6 (some ['B', 'G', 'R', 'Y']) E3 [['B', 'G', 'O', 'R']] = (RunResult.solved ['B', 'G', 'R', 'P'] 3, [['B', 'G', 'R', 'Y'], ['B', 'G', 'R', 'P']]))) rfl
  refine (loopRun_step ['B', 'G', 'R', 'P'] 6 5 ['B', 'G', 'R', 'Y'] E3 [['B', 'G', 'O', 'R']] 0 3 [['B', 'G', 'R', 'P']] ['B', 'G', 'R', 'P'] [['B', 'G', 'O', 'R'], ['B', 'G', 'R', 'Y']] rfl ((calc_eq_fastP ['B', 'G', 'R', 'P'] ['B', 'G', 'R', 'Y'] (by decide) (by decide)).trans (by decide)) (by decide) pe4 rfl (findNextGuess_singleton ['B', 'G', 'R', 'P'] [['B', 'G', 'O', 'R'], ['B', 'G', 'R', 'Y']]) (by decide) (by decide) (by decide)).trans ?_
  refine Eq.trans (step_lift ['B', 'G', 'R', 'Y'] (?_ : loopRun (honest ['B', 'G', 'R', 'P']) 5 (some ['B', 'G', 'R', 'P']) [['B', 'G', 'R', 'P']] [['B', 'G', 'O', 'R'], ['B', 'G', 'R', 'Y']] = (RunResult.solved ['B', 'G', 'R', 'P'] 3, [['B', 'G', 'R', 'P']]))) rfl
  exact loopRun_last ['B', 'G', 'R', 'P'] 5 4 [['B', 'G', 'R', 'P']] [['B', 'G', 'O', 'R'], ['B', 'G', 'R', 'Y']] rfl rfl (by decide)

lemma rs6 : loopRun (honest ['B', 'G', 'Y', 'O']) 7 none S0 [] =
    (RunResult.solved ['B', 'G', 'Y', 'O'] 4, [['B', 'G', 'O', 'R'], ['B', 'G', 'R', 'Y'], ['B', 'R', 'O', 'Y'], ['B', 'G', 'Y', 'O']]) := by
  refine (loopRun_none' (honest ['B', 'G', 'Y', 'O']) 7 S0 []).trans ?_
  refine (loopRun_step ['B', 'G', 'Y', 'O'] 7 6 ['B', 'G', 'O', 'R'] S0 [] 1 2 E3 ['B', 'G', 'R', 'Y'] [['B', 'G', 'O', 'R']] rfl ((calc_eq_fastP ['B', 'G', 'Y', 'O'] ['B', 'G', 'O', 'R'] (by decide) (by decide)).trans (by decide)) (by decide) pe3 rfl nx3 (by decide) (by decide) (by decide)).trans ?_
  refine Eq.trans (step_lift ['B', 'G', 'O', 'R'] (?_ : loopRun (honest ['B', 'G', 'Y', 'O']) 6 (some ['B', 'G', 'R', 'Y']) E3 [['B', 'G', 'O', 'R']] = (RunResult.solved ['B', 'G', 'Y', 'O'] 4, [['B', 'G', 'R', 'Y'], ['B', 'R', 'O', 'Y'], ['B', 'G', 'Y', 'O']]))) rfl
  refine (loopRun_step ['B', 'G', 'Y', 'O'] 6 5 ['B', 'G', 'R', 'Y'] E3 [['B', 'G', 'O', 'R']] 1 2 E5 ['B', 'R', 'O', 'Y'] [['B', 'G', 'O', 'R'], ['B', 'G', 'R', 'Y']] rfl ((calc_eq_fastP ['B', 'G', 'Y', 'O'] ['B', 'G', 'R', 'Y'] (by decide) (by decide)).trans (by decide)) (by decide) pe5 rfl nx5 (by decide) (by decide) (by decide)).trans ?_
  refine Eq.trans (step_lift ['B', 'G', 'R', 'Y'] (?_ : loopRun (honest ['B', 'G', 'Y', 'O']) 5 (some ['B', 'R', 'O', 'Y']) E5 [['B', 'G', 'O', 'R'], ['B', 'G', 'R', 'Y']] = (RunResult.solved ['B', 'G', 'Y', 'O'] 4, [['B', 'R', 'O', 'Y'], ['B', 'G', 'Y', 'O']]))) rfl
  refine (loopRun_step ['B', 'G', 'Y', 'O'] 5 4 ['B', 'R', 'O', 'Y'] E5 [['B', 'G', 'O', 'R'], ['B', 'G', 'R', 'Y']] 2 1 [['B', 'G', 'Y', 'O']] ['B', 'G', 'Y', 'O'] [['B', 'G', 'O', 'R'], ['B', 'G', 'R', 'Y'], ['B', 'R', 'O', 'Y']] rfl ((calc_eq_fastP ['B', 'G', 'Y', 'O'] ['B', 'R', 'O', 'Y'] (by decide) (by decide)).trans (by decide)) (by decide) pe6 rfl (findNextGuess_singleton ['B', 'G', 'Y', 'O'] [['B', 'G', 'O', 'R'], ['B', 'G', 'R', 'Y'], ['B', 'R', 'O', 'Y']]) (by decide) (by decide) (by decide)).trans ?_
  refine Eq.trans (step_lift ['B', 'R', 'O', 'Y'] (?_ : loopRun (honest ['B', 'G', 'Y', 'O']) 4 (some ['B', 'G', 'Y', 'O']) [['B', 'G', 'Y', 'O']] [['B', 'G', 'O', 'R'], ['B', 'G', 'R', 'Y'], ['B', 'R', 'O', 'Y']] = (RunResult.solved ['B', 'G', 'Y', 'O'] 4, [['B', 'G', 'Y', 'O']]))) rfl
  exact loopRun_last ['B', 'G', 'Y', 'O'] 4 3 [['B', 'G', 'Y', 'O']] [['B', 'G', 'O', 'R'], ['B', 'G', 'R', 'Y'], ['B', 'R', 'O', 'Y']] rfl rfl (by decide)

lemma rs7 : loopRun (honest ['B', 'G', 'Y', 'R']) 7 none S0 [] =
    (RunResult.solved ['B', 'G', 'Y', 'R'] 3, [['B', 'G', 'O', 'R'], ['B', 'G', 'O', 'Y'], ['B', 'G', 'Y', 'R']]) := by
  refine (loopRun_none' (honest ['B', 'G', 'Y', 'R']) 7 S0 []).trans ?_
  refine (loopRun_step ['B', 'G', 'Y', 'R'] 7 6 ['B', 'G', 'O', 'R'] S0 [] 0 3 E0 ['B', 'G', 'O', 'Y'] [['B', 'G', 'O', 'R']] rfl ((calc_eq_fastP ['B', 'G', 'Y', 'R'] ['B', 'G', 'O', 'R'] (by decide) (by decide)).trans (by decide)) (by decide) pe0 rfl nx0 (by decide) (by decide) (by decide)).trans ?_
  refine Eq.trans (step_lift ['B', 'G', 'O', 'R'] (?_ : loopRun (honest ['B', 'G', 'Y', 'R']) 6 (some ['B', 'G', 'O', 'Y']) E0 [['B', 'G', 'O', 'R']] = (RunResult.solved ['B', 'G', 'Y', 'R'] 3, [['B', 'G', 'O', 'Y'], ['B', 'G', 'Y', 'R']]))) rfl
  refine (loopRun_step ['B', 'G', 'Y', 'R'] 6 5 ['B', 'G', 'O', 'Y'] E0 [['B', 'G', 'O', 'R']] 1 2 E7 ['B', 'G', 'Y', 'R'] [['B', 'G', 'O', 'R'], ['B', 'G', 'O', 'Y']] rfl ((calc_eq_fastP ['B', 'G', 'Y', 'R'] ['B', 'G', 'O', 'Y'] (by decide) (by decide)).trans (by decide)) (by decide) pe7 rfl nx7 (by decide) (by decide) (by decide)).trans ?_
  refine Eq.trans (step_lift ['B', 'G', 'O', 'Y'] (?_ : loopRun (honest ['B', 'G', 'Y', 'R']) 5 (some ['B', 'G', 'Y', 'R']) E7 [['B', 'G', 'O', 'R'], ['B', 'G', 'O', 'Y']] = (RunResult.solved ['B', 'G', 'Y', 'R'] 3, [['B', 'G', 'Y', 'R']]))) rfl
  exact loopRun_last ['B', 'G', 'Y', 'R'] 5 4 E7 [['B', 'G', 'O', 'R'], ['B', 'G', 'O', 'Y']] rfl rfl (by decide)

lemma rs8 : loopRun (honest ['B', 'G', 'Y', 'P']) 7 none S0 [] =
    (RunResult.solved ['B', 'G', 'Y', 'P'] 2, [['B', 'G', 'O', 'R'], ['B', 'G', 'Y', 'P']]) := by
  refine (loopRun_none' (honest ['B', 'G', 'Y', 'P']) 7 S0 []).trans ?_
  refine (loopRun_step ['B', 'G', 'Y', 'P'] 7 6 ['B', 'G', 'O', 'R'] S0 [] 0 2 E8 ['B', 'G', 'Y', 'P'] [['B', 'G', 'O', 'R']] rfl ((calc_eq_fastP ['B', 'G', 'Y', 'P'] ['B', 'G', 'O', 'R'] (by decide) (by decide)).trans (by decide)) (by decide) pe8 rfl nx8 (by decide) (by decide) (by decide)).trans ?_
  refine Eq.trans (step_lift ['B', 'G', 'O', 'R'] (?_ : loopRun (honest ['B', 'G', 'Y', 'P']) 6 (some ['B', 'G', 'Y', 'P']) E8 [['B', 'G', 'O', 'R']] = (RunResult.solved ['B', 'G', 'Y', 'P'] 2, [['B', 'G', 'Y', 'P']]))) rfl
  exact loopRun_last ['B', 'G', 'Y', 'P'] 6 5 E8 [['B', 'G', 'O', 'R']] rfl rfl (by decide)

lemma rs9 : loopRun (honest ['B', 'G', 'P', 'O']) 7 none S0 [] =
    (RunResult.solved ['B', 'G', 'P', 'O'] 3, [['B', 'G', 'O', 'R'], ['B', 'G', 'R', 'Y'], ['B', 'G', 'P', 'O']]) := by
  refine (loopRun_none' (honest ['B', 'G', 'P', 'O']) 7 S0 []).trans ?_
  refine (loopRun_step ['B', 'G', 'P', 'O'] 7 6 ['B', 'G', 'O', 'R'] S0 [] 1 2 E3 ['B', 'G', 'R', 'Y'] [['B', 'G', 'O', 'R']] rfl ((calc_eq_fastP ['B', 'G', 'P', 'O'] ['B', 'G', 'O', 'R'] (by decide) (by decide)).trans (by decide)) (by decide) pe3 rfl nx3 (by decide) (by decide) (by decide)).trans ?_
  refine Eq.trans (step_lift ['B', 'G', 'O', 'R'] (?_ : loopRun (honest ['B', 'G', 'P', 'O']) 6 (some ['B', 'G', 'R', 'Y']) E3 [['B', 'G', 'O', 'R']] = (RunResult.solved ['B', 'G', 'P', 'O'] 3, [['B', 'G', 'R', 'Y'], ['B', 'G', 'P', 'O']]))) rfl
  refine (loopRun_step ['B', 'G', 'P', 'O'] 6 5 ['B', 'G', 'R', 'Y'] E3 [['B', 'G', 'O', 'R']] 0 2 [['B', 'G', 'P', 'O']] ['B', 'G', 'P', 'O'] [['B', 'G', 'O', 'R'], ['B', 'G', 'R', 'Y']] rfl ((calc_eq_fastP ['B', 'G', 'P', 'O'] ['B', 'G', 'R', 'Y'] (by decide) (by decide)).trans (by decide)) (by decide) pe9 rfl (findNextGuess_singleton ['B', 'G', 'P', 'O'] [['B', 'G', 'O', 'R'], ['B', 'G', 'R', 'Y']]) (by decide) (by decide) (by decide)).trans ?_
  refine Eq.trans (step_lift ['B', 'G', 'R', 'Y'] (?_ : loopRun (honest ['B', 'G', 'P', 'O']) 5 (some ['B', 'G', 'P', 'O']) [['B', 'G', 'P', 'O']] [['B', 'G', 'O', 'R'], ['B', 'G', 'R', 'Y']] = (RunResult.solved ['B', 'G', 'P', 'O'] 3, [['B', 'G', 'P', 'O']]))) rfl
  exact loopRun_last ['B', 'G', 'P', 'O'] 5 4 [['B', 'G', 'P', 'O']] [['B', 'G', 'O', 'R'], ['B', 'G', 'R', 'Y']] rfl rfl (by decide)

lemma rs10 : loopRun (honest ['B', 'G', 'P', 'R']) 7 none S0 [] =
    (RunResult.solved ['B', 'G', 'P', 'R'] 3, [['B', 'G', 'O', 'R'], ['B', 'G', 'O', 'Y'], ['B', 'G', 'P', 'R']]) := by
  refine (loopRun_none' (honest ['B', 'G', 'P', 'R']) 7 S0 []).trans ?_
  refine (loopRun_step ['B', 'G', 'P', 'R'] 7 6 ['B', 'G', 'O', 'R'] S0 [] 0 3 E0 ['B', 'G', 'O', 'Y'] [['B', 'G', 'O', 'R']] rfl ((calc_eq_fastP ['B', 'G', 'P', 'R'] ['B', 'G', 'O', 'R'] (by decide) (by decide)).trans (by decide)) (by decide) pe0 rfl nx0 (by decide) (by decide) (by decide)).trans ?_
  refine Eq.trans (step_lift ['B', 'G', 'O', 'R'] (?_ : loopRun (honest ['B', 'G', 'P', 'R']) 6 (some ['B', 'G', 'O', 'Y']) E0 [['B', 'G', 'O', 'R']] = (RunResult.solved ['B', 'G', 'P', 'R'] 3, [['B', 'G', 'O', 'Y'], ['B', 'G', 'P', 'R']]))) rfl
  refine (loopRun_step ['B', 'G', 'P', 'R'] 6 5 ['B', 'G', 'O', 'Y'] E0 [['B', 'G', 'O', 'R']] 0 2 E10 ['B', 'G', 'P', 'R'] [['B', 'G', 'O', 'R'], ['B', 'G', 'O', 'Y']] rfl ((calc_eq_fastP ['B', 'G', 'P', 'R'] ['B', 'G', 'O', 'Y'] (by decide) (by decide)).trans (by decide)) (by decide) pe10 rfl nx10 (by decide) (by decide) (by decide)).trans ?_
  refine Eq.trans (step_lift ['B', 'G', 'O', 'Y'] (?_ : loopRun (honest ['B', 'G', 'P', 'R']) 5 (some ['B', 'G', 'P', 'R']) E10 [['B', 'G', 'O', 'R'], ['B', 'G', 'O', 'Y']] = (RunResult.solved ['B', 'G', 'P', 'R'] 3, [['B', 'G', 'P', 'R']]))) rfl
  exact loopRun_last ['B', 'G', 'P', 'R'] 5 4 E10 [['B', 'G', 'O', 'R'], ['B', 'G', 'O', 'Y']] rfl rfl (by decide)

lemma rs11 : loopRun (honest ['B', 'G', 'P', 'Y']) 7 none S0 [] =
    (RunResult.solved ['B', 'G', 'P', 'Y'] 3, [['B', 'G', 'O', 'R'], ['B', 'G', 'Y', 'P'], ['B', 'G', 'P', 'Y']]) := by
  refine (loopRun_none' (honest ['B', 'G', 'P', 'Y']) 7 S0 []).trans ?_
  refine (loopRun_step ['B', 'G', 'P', 'Y'] 7 6 ['B', 'G', 'O', 'R'] S0 [] 0 2 E8 ['B', 'G', 'Y', 'P'] [['B', 'G', 'O', 'R']] rfl ((calc_eq_fastP ['B', 'G', 'P', 'Y'] ['B', 'G', 'O', 'R'] (by decide) (by decide)).trans (by decide)) (by decide) pe8 rfl nx8 (by decide) (by decide) (by decide)).trans ?_
  refine Eq.trans (step_lift ['B', 'G', 'O', 'R'] (?_ : loopRun (honest ['B', 'G', 'P', 'Y']) 6 (some ['B', 'G', 'Y', 'P']) E8 [['B', 'G', 'O', 'R']] = (RunResult.solved ['B', 'G', 'P', 'Y'] 3, [['B', 'G', 'Y', 'P'], ['B', 'G', 'P', 'Y']]))) rfl
  refine (loopRun_step ['B', 'G', 'P', 'Y'] 6 5 ['B', 'G', 'Y', 'P'] E8 [['B', 'G', 'O', 'R']] 2 2 [['B', 'G', 'P', 'Y']] ['B', 'G', 'P', 'Y'] [['B', 'G', 'O', 'R'], ['B', 'G', 'Y', 'P']] rfl ((calc_eq_fastP ['B', 'G', 'P', 'Y'] ['B', 'G', 'Y', 'P'] (by decide) (by decide)).trans (by decide)) (by decide) pe11 rfl (findNextGuess_singleton ['B', 'G', 'P', 'Y'] [['B', 'G', 'O', 'R'], ['B', 'G', 'Y', 'P']]) (by decide) (by decide) (by decide)).trans ?_
  refine Eq.trans (step_lift ['B', 'G', 'Y', 'P'] (?_ : loopRun (honest ['B', 'G', 'P', 'Y']) 5 (some ['B', 'G', 'P', 'Y']) [['B', 'G', 'P', 'Y']] [['B', 'G', 'O', 'R'], ['B', 'G', 'Y', 'P']] = (RunResult.solved ['B', 'G', 'P', 'Y'] 3, [['B', 'G', 'P', 'Y']]))) rfl
  exact loopRun_last ['B', 'G', 'P', 'Y'] 5 4 [['B', 'G', 'P', 'Y']] [['B', 'G', 'O', 'R'], ['B', 'G', 'Y', 'P']] rfl rfl (by decide)

lemma rs12 : loopRun (honest ['B', 'O', 'G', 'R']) 7 none S0 [] =
    (RunResult.solved ['B', 'O', 'G', 'R'] 3, [['B', 'G', 'O', 'R'], ['B', 'G', 'R', 'O'], ['B', 'O', 'G', 'R']]) := by
  refine (loopRun_none' (honest ['B', 'O', 'G', 'R']) 7 S0 []).trans ?_
  refine (loopRun_step ['B', 'O', 'G', 'R'] 7 6 ['B', 'G', 'O', 'R'] S0 [] 2 2 E2 ['B', 'G', 'R', 'O'] [['B', 'G', 'O', 'R']] rfl ((calc_eq_fastP ['B', 'O', 'G', 'R'] ['B', 'G', 'O', 'R'] (by decide) (by decide)).trans (by decide)) (by decide) pe2 rfl nx2 (by decide) (by decide) (by decide)).trans ?_
  refine Eq.trans (step_lift ['B', 'G', 'O', 'R'] (?_ : loopRun (honest ['B', 'O', 'G', 'R']) 6 (some ['B', 'G', 'R', 'O']) E2 [['B', 'G', 'O', 'R']] = (RunResult.solved ['B', 'O', 'G', 'R'] 3, [['B', 'G', 'R', 'O'], ['B', 'O', 'G', 'R']]))) rfl
  refine (loopRun_step ['B', 'O', 'G', 'R'] 6 5 ['B', 'G', 'R', 'O'] E2 [['B', 'G', 'O', 'R']] 3 1 E12 ['B', 'O', 'G', 'R'] [['B', 'G', 'O', 'R'], ['B', 'G', 'R', 'O']] rfl ((calc_eq_fastP ['B', 'O', 'G', 'R'] ['B', 'G', 'R', 'O'] (by decide) (by decide)).trans (by decide)) (by decide) pe12 rfl nx12 (by decide) (by decide) (by decide)).trans ?_
  refine Eq.trans (step_lift ['B', 'G', 'R', 'O'] (?_ : loopRun (honest ['B', 'O', 'G', 'R']) 5 (some ['B', 'O', 'G', 'R']) E12 [['B', 'G', 'O', 'R'], ['B', 'G', 'R', 'O']] = (RunResult.solved ['B', 'O', 'G', 'R'] 3, [['B', 'O', 'G', 'R']]))) rfl
  exact loopRun_last ['B', 'O', 'G', 'R'] 5 4 E12 [['B', 'G', 'O', 'R'], ['B', 'G', 'R', 'O']] rfl rfl (by decide)

lemma rs13 : loopRun (honest ['B', 'O', 'G', 'Y']) 7 none S0 [] =
    (RunResult.solved ['B', 'O', 'G', 'Y'] 3, [['B', 'G', 'O', 'R'], ['B', 'O', 'R', 'Y'], ['B', 'O', 'G', 'Y']]) := by
  refine (loopRun_none' (honest ['B', 'O', 'G', 'Y']) 7 S0 []).trans ?_
  refine (loopRun_step ['B', 'O', 'G', 'Y'] 7 6 ['B', 'G', 'O', 'R'] S0 [] 2 1 E13 ['B', 'O', 'R', 'Y'] [['B', 'G', 'O', 'R']] rfl ((calc_eq_fastP ['B', 'O', 'G', 'Y'] ['B', 'G', 'O', 'R'] (by decide) (by decide)).trans (by decide)) (by decide) pe13 rfl nx13 (by decide) (by decide) (by decide)).trans ?_
  refine Eq.trans (step_lift ['B', 'G', 'O', 'R'] (?_ : loopRun (honest ['B', 'O', 'G', 'Y']) 6 (some ['B', 'O', 'R', 'Y']) E13 [['B', 'G', 'O', 'R']] = (RunResult.solved ['B', 'O', 'G', 'Y'] 3, [['B', 'O', 'R', 'Y'], ['B', 'O', 'G', 'Y']]))) rfl
  refine (loopRun_step ['B', 'O', 'G', 'Y'] 6 5 ['B', 'O', 'R', 'Y'] E13 [['B', 'G', 'O', 'R']] 0 3 E14 ['B', 'O', 'G', 'Y'] [['B', 'G', 'O', 'R'], ['B', 'O', 'R', 'Y']] rfl ((calc_eq_fastP ['B', 'O', 'G', 'Y'] ['B', 'O', 'R', 'Y'] (by decide) (by decide)).trans (by decide)) (by decide) pe14 rfl nx14 (by decide) (by decide) (by decide)).trans ?_
  refine Eq.trans (step_lift ['B', 'O', 'R', 'Y'] (?_ : loopRun (honest ['B', 'O', 'G', 'Y']) 5 (some ['B', 'O', 'G', 'Y']) E14 [['B', 'G', 'O', 'R'], ['B', 'O', 'R', 'Y']] = (RunResult.solved ['B', 'O', 'G', 'Y'] 3, [['B', 'O', 'G', 'Y']]))) rfl
  exact loopRun_last ['B', 'O', 'G', 'Y'] 5 4 E14 [['B', 'G', 'O', 'R'], ['B', 'O', 'R', 'Y']] rfl rfl (by decide)

lemma rs14 : loopRun (honest ['B', 'O', 'G', 'P']) 7 none S0 [] =
    (RunResult.solved ['B', 'O', 'G', 'P'] 3, [['B', 'G', 'O', 'R'], ['B', 'O', 'R', 'Y'], ['B', 'O', 'G', 'P']]) := by
  refine (loopRun_none' (honest ['B', 'O', 'G', 'P']) 7 S0 []).trans ?_
  refine (loopRun_step ['B', 'O', 'G', 'P'] 7 6 ['B', 'G', 'O', 'R'] S0 [] 2 1 E13 ['B', 'O', 'R', 'Y'] [['B', 'G', 'O', 'R']] rfl ((calc_eq_fastP ['B', 'O', 'G', 'P'] ['B', 'G', 'O', 'R'] (by decide) (by decide)).trans (by decide)) (by decide) pe13 rfl nx13 (by decide) (by decide) (by decide)).trans ?_
  refine Eq.trans (step_lift ['B', 'G', 'O', 'R'] (?_ : loopRun (honest ['B', 'O', 'G', 'P']) 6 (some ['B', 'O', 'R', 'Y']) E13 [['B', 'G', 'O', 'R']] = (RunResult.solved ['B', 'O', 'G', 'P'] 3, [['B', 'O', 'R', 'Y'], ['B', 'O', 'G', 'P']]))) rfl
  refine (loopRun_step ['B', 'O', 'G', 'P'] 6 5 ['B', 'O', 'R', 'Y'] E13 [['B', 'G', 'O', 'R']] 0 2 E15 ['B', 'O', 'G', 'P'] [['B', 'G', 'O', 'R'], ['B', 'O', 'R', 'Y']] rfl ((calc_eq_fastP ['B', 'O', 'G', 'P'] ['B', 'O', 'R', 'Y'] (by decide) (by decide)).trans (by decide)) (by decide) pe15 rfl nx15 (by decide) (by decide) (by decide)).trans ?_
  refine Eq.trans (step_lift ['B', 'O', 'R', 'Y'] (?_ : loopRun (honest ['B', 'O', 'G', 'P']) 5 (some ['B', 'O', 'G', 'P']) E15 [['B', 'G', 'O', 'R'], ['B', 'O', 'R', 'Y']] = (RunResult.solved ['B', 'O', 'G', 'P'] 3, [['B', 'O', 'G', 'P']]))) rfl
  exact loopRun_last ['B', 'O', 'G', 'P'] 5 4 E15 [['B', 'G', 'O', 'R'], ['B', 'O', 'R', 'Y']] rfl rfl (by decide)

lemma rs15 : loopRun (honest ['B', 'O', 'R', 'G']) 7 none S0 [] =
    (RunResult.solved ['B', 'O', 'R', 'G'] 2, [['B', 'G', 'O', 'R'], ['B', 'O', 'R', 'G']]) := by
  refine (loopRun_none' (honest ['B', 'O', 'R', 'G']) 7 S0 []).trans ?_
  refine (loopRun_step ['B', 'O', 'R', 'G'] 7 6 ['B', 'G', 'O', 'R'] S0 [] 3 1 E16 ['B', 'O', 'R', 'G'] [['B', 'G', 'O', 'R']] rfl ((calc_eq_fastP ['B', 'O', 'R', 'G'] ['B', 'G', 'O', 'R'] (by decide) (by decide)).trans (by decide)) (by decide) pe16 rfl nx16 (by decide) (by decide) (by decide)).trans ?_
  refine Eq.trans (step_lift ['B', 'G', 'O', 'R'] (?_ : loopRun (honest ['B', 'O', 'R', 'G']) 6 (some ['B', 'O', 'R', 'G']) E16 [['B', 'G', 'O', 'R']] = (RunResult.solved ['B', 'O', 'R', 'G'] 2, [['B', 'O', 'R', 'G']]))) rfl
  exact loopRun_last ['B', 'O', 'R', 'G'] 6 5 E16 [['B', 'G', 'O', 'R']] rfl rfl (by decide)

lemma rs16 : loopRun (honest ['B', 'O', 'R', 'Y']) 7 none S0 [] =
    (RunResult.solved ['B', 'O', 'R', 'Y'] 2, [['B', 'G', 'O', 'R'], ['B', 'O', 'R', 'Y']]) := by
  refine (loopRun_none' (honest ['B', 'O', 'R', 'Y']) 7 S0 []).trans ?_
  refine (loopRun_step ['B', 'O', 'R', 'Y'] 7 6 ['B', 'G', 'O', 'R'] S0 [] 2 1 E13 ['B', 'O', 'R', 'Y'] [['B', 'G', 'O', 'R']] rfl ((calc_eq_fastP ['B', 'O', 'R', 'Y'] ['B', 'G', 'O', 'R'] (by decide) (by decide)).trans (by decide)) (by decide) pe13 rfl nx13 (by decide) (by decide) (by decide)).trans ?_
  refine Eq.trans (step_lift ['B', 'G', 'O', 'R'] (?_ : loopRun (honest ['B', 'O', 'R', 'Y']) 6 (some ['B', 'O', 'R', 'Y']) E13 [['B', 'G', 'O', 'R']] = (RunResult.solved ['B', 'O', 'R', 'Y'] 2, [['B', 'O', 'R', 'Y']]))) rfl
  exact loopRun_last ['B', 'O', 'R', 'Y'] 6 5 E13 [['B', 'G', 'O', 'R']] rfl rfl (by decide)

lemma rs17 : loopRun (honest ['B', 'O', 'R', 'P']) 7 none S0 [] =
    (RunResult.solved ['B', 'O', 'R', 'P'] 4, [['B', 'G', 'O', 'R'], ['B', 'O', 'R', 'Y'], ['B', 'O', 'G', 'Y'], ['B', 'O', 'R', 'P']]) := by
  refine (loopRun_none' (honest ['B', 'O', 'R', 'P']) 7 S0 []).trans ?_
  refine (loopRun_step ['B', 'O', 'R', 'P'] 7 6 ['B', 'G', 'O', 'R'] S0 [] 2 1 E13 ['B', 'O', 'R', 'Y'] [['B', 'G', 'O', 'R']] rfl ((calc_eq_fastP ['B', 'O', 'R', 'P'] ['B', 'G', 'O', 'R'] (by decide) (by decide)).trans (by decide)) (by decide) pe13 rfl nx13 (by decide) (by decide) (by decide)).trans ?_
  refine Eq.trans (step_lift ['B', 'G', 'O', 'R'] (?_ : loopRun (honest ['B', 'O', 'R', 'P']) 6 (some ['B', 'O', 'R', 'Y']) E13 [['B', 'G', 'O', 'R']] = (RunResult.solved ['B', 'O', 'R', 'P'] 4, [['B', 'O', 'R', 'Y'], ['B', 'O', 'G', 'Y'], ['B', 'O', 'R', 'P']]))) rfl
  refine (loopRun_step ['B', 'O', 'R', 'P'] 6 5 ['B', 'O', 'R', 'Y'] E13 [['B', 'G', 'O', 'R']] 0 3 E14 ['B', 'O', 'G', 'Y'] [['B', 'G', 'O', 'R'], ['B', 'O', 'R', 'Y']] rfl ((calc_eq_fastP ['B', 'O', 'R', 'P'] ['B', 'O', 'R', 'Y'] (by decide) (by decide)).trans (by decide)) (by decide) pe14 rfl nx14 (by decide) (by decide) (by decide)).trans ?_
  refine Eq.trans (step_lift ['B', 'O', 'R', 'Y'] (?_ : loopRun (honest ['B', 'O', 'R', 'P']) 5 (some ['B', 'O', 'G', 'Y']) E14 [['B', 'G', 'O', 'R'], ['B', 'O', 'R', 'Y']] = (RunResult.solved ['B', 'O', 'R', 'P'] 4, [['B', 'O', 'G', 'Y'], ['B', 'O', 'R', 'P']]))) rfl
  refine (loopRun_step ['B', 'O', 'R', 'P'] 5 4 ['B', 'O', 'G', 'Y'] E14 [['B', 'G', 'O', 'R'], ['B', 'O', 'R', 'Y']] 0 2 [['B', 'O', 'R', 'P']] ['B', 'O', 'R', 'P'] [['B', 'G', 'O', 'R'], ['B', 'O', 'R', 'Y'], ['B', 'O', 'G', 'Y']] rfl ((calc_eq_fastP ['B', 'O', 'R', 'P'] ['B', 'O', 'G', 'Y'] (by decide) (by decide)).trans (by decide)) (by decide) pe17 rfl (findNextGuess_singleton ['B', 'O', 'R', 'P'] [['B', 'G', 'O', 'R'], ['B', 'O', 'R', 'Y'], ['B', 'O', 'G', 'Y']]) (by decide) (by decide) (by decide)).trans ?_
  refine Eq.trans (step_lift ['B', 'O', 'G', 'Y'] (?_ : loopRun (honest ['B', 'O', 'R', 'P']) 4 (some ['B', 'O', 'R', 'P']) [['B', 'O', 'R', 'P']] [['B', 'G', 'O', 'R'], ['B', 'O', 'R', 'Y'], ['B', 'O', 'G', 'Y']] = (RunResult.solved ['B', 'O', 'R', 'P'] 4, [['B', 'O', 'R', 'P']]))) rfl
  exact loopRun_last ['B', 'O', 'R', 'P'] 4 3 [['B', 'O', 'R', 'P']] [['B', 'G', 'O', 'R'], ['B', 'O', 'R', 'Y'], ['B', 'O', 'G', 'Y']] rfl rfl (by decide)

lemma rs18 : loopRun (honest ['B', 'O', 'Y', 'G']) 7 none S0 [] =
    (RunResult.solved ['B', 'O', 'Y', 'G'] 3, [['B', 'G', 'O', 'R'], ['B', 'O', 'R', 'Y'], ['B', 'O', 'Y', 'G']]) := by
  refine (loopRun_none' (honest ['B', 'O', 'Y', 'G']) 7 S0 []).trans ?_
  refine (loopRun_step ['B', 'O', 'Y', 'G'] 7 6 ['B', 'G', 'O', 'R'] S0 [] 2 1 E13 ['B', 'O', 'R', 'Y'] [['B', 'G', 'O', 'R']] rfl ((calc_eq_fastP ['B', 'O', 'Y', 'G'] ['B', 'G', 'O', 'R'] (by decide) (by decide)).trans (by decide)) (by decide) pe13 rfl nx13 (by decide) (by decide) (by decide)).trans ?_
  refine Eq.trans (step_lift ['B', 'G', 'O', 'R'] (?_ : loopRun (honest ['B', 'O', 'Y', 'G']) 6 (some ['B', 'O', 'R', 'Y']) E13 [['B', 'G', 'O', 'R']] = (RunResult.solved ['B', 'O', 'Y', 'G'] 3, [['B', 'O', 'R', 'Y'], ['B', 'O', 'Y', 'G']]))) rfl
  refine (loopRun_step ['B', 'O', 'Y', 'G'] 6 5 ['B', 'O', 'R', 'Y'] E13 [['B', 'G', 'O', 'R']] 1 2 E18 ['B', 'O', 'Y', 'G'] [['B', 'G', 'O', 'R'], ['B', 'O', 'R', 'Y']] rfl ((calc_eq_fastP ['B', 'O', 'Y', 'G'] ['B', 'O', 'R', 'Y'] (by decide) (by decide)).trans (by decide)) (by decide) pe18 rfl nx18 (by decide) (by decide) (by decide)).trans ?_
  refine Eq.trans (step_lift ['B', 'O', 'R', 'Y'] (?_ : loopRun (honest ['B', 'O', 'Y', 'G']) 5 (some ['B', 'O', 'Y', 'G']) E18 [['B', 'G', 'O', 'R'], ['B', 'O', 'R', 'Y']] = (RunResult.solved ['B', 'O', 'Y', 'G'] 3, [['B', 'O', 'Y', 'G']]))) rfl
  exact loopRun_last ['B', 'O', 'Y', 'G'] 5 4 E18 [['B', 'G', 'O', 'R'], ['B', 'O', 'R', 'Y']] rfl rfl (by decide)

lemma rs19 : loopRun (honest ['B', 'O', 'Y', 'R']) 7 none S0 [] =
    (RunResult.solved ['B', 'O', 'Y', 'R'] 3, [['B', 'G', 'O', 'R'], ['B', 'G', 'R', 'Y'], ['B', 'O', 'Y', 'R']]) := by
  refine (loopRun_none' (honest ['B', 'O', 'Y', 'R']) 7 S0 []).trans ?_
  refine (loopRun_step ['B', 'O', 'Y', 'R'] 7 6 ['B', 'G', 'O', 'R'] S0 [] 1 2 E3 ['B', 'G', 'R', 'Y'] [['B', 'G', 'O', 'R']] rfl ((calc_eq_fastP ['B', 'O', 'Y', 'R'] ['B', 'G', 'O', 'R'] (by decide) (by decide)).trans (by decide)) (by decide) pe3 rfl nx3 (by decide) (by decide) (by decide)).trans ?_
  refine Eq.trans (step_lift ['B', 'G', 'O', 'R'] (?_ : loopRun (honest ['B', 'O', 'Y', 'R']) 6 (some ['B', 'G', 'R', 'Y']) E3 [['B', 'G', 'O', 'R']] = (RunResult.solved ['B', 'O', 'Y', 'R'] 3, [['B', 'G', 'R', 'Y'], ['B', 'O', 'Y', 'R']]))) rfl
  refine (loopRun_step ['B', 'O', 'Y', 'R'] 6 5 ['B', 'G', 'R', 'Y'] E3 [['B', 'G', 'O', 'R']] 2 1 E19 ['B', 'O', 'Y', 'R'] [['B', 'G', 'O', 'R'], ['B', 'G', 'R', 'Y']] rfl ((calc_eq_fastP ['B', 'O', 'Y', 'R'] ['B', 'G', 'R', 'Y'] (by decide) (by decide)).trans (by decide)) (by decide) pe19 rfl nx19 (by decide) (by decide) (by decide)).trans ?_
  refine Eq.trans (step_lift ['B', 'G', 'R', 'Y'] (?_ : loopRun (honest ['B', 'O', 'Y', 'R']) 5 (some ['B', 'O', 'Y', 'R']) E19 [['B', 'G', 'O', 'R'], ['B', 'G', 'R', 'Y']] = (RunResult.solved ['B', 'O', 'Y', 'R'] 3, [['B', 'O', 'Y', 'R']]))) rfl
  exact loopRun_last ['B', 'O', 'Y', 'R'] 5 4 E19 [['B', 'G', 'O', 'R'], ['B', 'G', 'R', 'Y']] rfl rfl (by decide)

lemma rs20 : loopRun (honest ['B', 'O', 'Y', 'P']) 7 none S0 [] =
    (RunResult.solved ['B', 'O', 'Y', 'P'] 2, [['B', 'G', 'O', 'R'], ['B', 'O', 'Y', 'P']]) := by
  refine (loopRun_none' (honest ['B', 'O', 'Y', 'P']) 7 S0 []).trans ?_
  refine (loopRun_step ['B', 'O', 'Y', 'P'] 7 6 ['B', 'G', 'O', 'R'] S0 [] 1 1 E20 ['B', 'O', 'Y', 'P'] [['B', 'G', 'O', 'R']] rfl ((calc_eq_fastP ['B', 'O', 'Y', 'P'] ['B', 'G', 'O', 'R'] (by decide) (by decide)).trans (by decide)) (by decide) pe20 rfl nx20 (by decide) (by decide) (by decide)).trans ?_
  refine Eq.trans (step_lift ['B', 'G', 'O', 'R'] (?_ : loopRun (honest ['B', 'O', 'Y', 'P']) 6 (some ['B', 'O', 'Y', 'P']) E20 [['B', 'G', 'O', 'R']] = (RunResult.solved ['B', 'O', 'Y', 'P'] 2, [['B', 'O', 'Y', 'P']]))) rfl
  exact loopRun_last ['B', 'O', 'Y', 'P'] 6 5 E20 [['B', 'G', 'O', 'R']] rfl rfl (by decide)

lemma rs21 : loopRun (honest ['B', 'O', 'P', 'G']) 7 none S0 [] =
    (RunResult.solved ['B', 'O', 'P', 'G'] 4, [['B', 'G', 'O', 'R'], ['B', 'O', 'R', 'Y'], ['B', 'O', 'G', 'P'], ['B', 'O', 'P', 'G']]) := by
  refine (loopRun_none' (honest ['B', 'O', 'P', 'G']) 7 S0 []).trans ?_
  refine (loopRun_step ['B', 'O', 'P', 'G'] 7 6 ['B', 'G', 'O', 'R'] S0 [] 2 1 E13 ['B', 'O', 'R', 'Y'] [['B', 'G', 'O', 'R']] rfl ((calc_eq_fastP ['B', 'O', 'P', 'G'] ['B', 'G', 'O', 'R'] (by decide) (by decide)).trans (by decide)) (by decide) pe13 rfl nx13 (by decide) (by decide) (by decide)).trans ?_
  refine Eq.trans (step_lift ['B', 'G', 'O', 'R'] (?_ : loopRun (honest ['B', 'O', 'P', 'G']) 6 (some ['B', 'O', 'R', 'Y']) E13 [['B', 'G', 'O', 'R']] = (RunResult.solved ['B', 'O', 'P', 'G'] 4, [['B', 'O', 'R', 'Y'], ['B', 'O', 'G', 'P'], ['B', 'O', 'P', 'G']]))) rfl
  refine (loopRun_step ['B', 'O', 'P', 'G'] 6 5 ['B', 'O', 'R', 'Y'] E13 [['B', 'G', 'O', 'R']] 0 2 E15 ['B', 'O', 'G', 'P'] [['B', 'G', 'O', 'R'], ['B', 'O', 'R', 'Y']] rfl ((calc_eq_fastP ['B', 'O', 'P', 'G'] ['B', 'O', 'R', 'Y'] (by decide) (by decide)).trans (by decide)) (by decide) pe15 rfl nx15 (by decide) (by decide) (by decide)).trans ?_
  refine Eq.trans (step_lift ['B', 'O', 'R', 'Y'] (?_ : loopRun (honest ['B', 'O', 'P', 'G']) 5 (some ['B', 'O', 'G', 'P']) E15 [['B', 'G', 'O', 'R'], ['B', 'O', 'R', 'Y']] = (RunResult.solved ['B', 'O', 'P', 'G'] 4, [['B', 'O', 'G', 'P'], ['B', 'O', 'P', 'G']]))) rfl
  refine (loopRun_step ['B', 'O', 'P', 'G'] 5 4 ['B', 'O', 'G', 'P'] E15 [['B', 'G', 'O', 'R'], ['B', 'O', 'R', 'Y']] 2 2 [['B', 'O', 'P', 'G']] ['B', 'O', 'P', 'G'] [['B', 'G', 'O', 'R'], ['B', 'O', 'R', 'Y'], ['B', 'O', 'G', 'P']] rfl ((calc_eq_fastP ['B', 'O', 'P', 'G'] ['B', 'O', 'G', 'P'] (by decide) (by decide)).trans (by decide)) (by decide) pe21 rfl (findNextGuess_singleton ['B', 'O', 'P', 'G'] [['B', 'G', 'O', 'R'], ['B', 'O', 'R', 'Y'], ['B', 'O', 'G', 'P']]) (by decide) (by decide) (by decide)).trans ?_
  refine Eq.trans (step_lift ['B', 'O', 'G', 'P'] (?_ : loopRun (honest ['B', 'O', 'P', 'G']) 4 (some ['B', 'O', 'P', 'G']) [['B', 'O', 'P', 'G']] [['B', 'G', 'O', 'R'], ['B', 'O', 'R', 'Y'], ['B', 'O', 'G', 'P']] = (RunResult.solved ['B', 'O', 'P', 'G'] 4, [['B', 'O', 'P', 'G']]))) rfl
  exact loopRun_last ['B', 'O', 'P', 'G'] 4 3 [['B', 'O', 'P', 'G']] [['B', 'G', 'O', 'R'], ['B', 'O', 'R', 'Y'], ['B', 'O', 'G', 'P']] rfl rfl (by decide)

lemma rs22 : loopRun (honest ['B', 'O', 'P', 'R']) 7 none S0 [] =
    (RunResult.solved ['B', 'O', 'P', 'R'] 3, [['B', 'G', 'O', 'R'], ['B', 'G', 'R', 'Y'], ['B', 'O', 'P', 'R']]) := by
  refine (loopRun_none' (honest ['B', 'O', 'P', 'R']) 7 S0 []).trans ?_
  refine (loopRun_step ['B', 'O', 'P', 'R'] 7 6 ['B', 'G', 'O', 'R'] S0 [] 1 2 E3 ['B', 'G', 'R', 'Y'] [['B', 'G', 'O', 'R']] rfl ((calc_eq_fastP ['B', 'O', 'P', 'R'] ['B', 'G', 'O', 'R'] (by decide) (by decide)).trans (by decide)) (by decide) pe3 rfl nx3 (by decide) (by decide) (by decide)).trans ?_
  refine Eq.trans (step_lift ['B', 'G', 'O', 'R'] (?_ : loopRun (honest ['B', 'O', 'P', 'R']) 6 (some ['B', 'G', 'R', 'Y']) E3 [['B', 'G', 'O', 'R']] = (RunResult.solved ['B', 'O', 'P', 'R'] 3, [['B', 'G', 'R', 'Y'], ['B', 'O', 'P', 'R']]))) rfl
  refine (loopRun_step ['B', 'O', 'P', 'R'] 6 5 ['B', 'G', 'R', 'Y'] E3 [['B', 'G', 'O', 'R']] 1 1 E22 ['B', 'O', 'P', 'R'] [['B', 'G', 'O', 'R'], ['B', 'G', 'R', 'Y']] rfl ((calc_eq_fastP ['B', 'O', 'P', 'R'] ['B', 'G', 'R', 'Y'] (by decide) (by decide)).trans (by decide)) (by decide) pe22 rfl nx22 (by decide) (by decide) (by decide)).trans ?_
  refine Eq.trans (step_lift ['B', 'G', 'R', 'Y'] (?_ : loopRun (honest ['B', 'O', 'P', 'R']) 5 (some ['B', 'O', 'P', 'R']) E22 [['B', 'G', 'O', 'R'], ['B', 'G', 'R', 'Y']] = (RunResult.solved ['B', 'O', 'P', 'R'] 3, [['B', 'O', 'P', 'R']]))) rfl
  exact loopRun_last ['B', 'O', 'P', 'R'] 5 4 E22 [['B', 'G', 'O', 'R'], ['B', 'G', 'R', 'Y']] rfl rfl (by decide)

lemma rs23 : loopRun (honest ['B', 'O', 'P', 'Y']) 7 none S0 [] =
    (RunResult.solved ['B', 'O', 'P', 'Y'] 3, [['B', 'G', 'O', 'R'], ['B', 'O', 'Y', 'P'], ['B', 'O', 'P', 'Y']]) := by
  refine (loopRun_none' (honest ['B', 'O', 'P', 'Y']) 7 S0 []).trans ?_
  refine (loopRun_step ['B', 'O', 'P', 'Y'] 7 6 ['B', 'G', 'O', 'R'] S0 [] 1 1 E20 ['B', 'O', 'Y', 'P'] [['B', 'G', 'O', 'R']] rfl ((calc_eq_fastP ['B', 'O', 'P', 'Y'] ['B', 'G', 'O', 'R'] (by decide) (by decide)).trans (by decide)) (by decide) pe20 rfl nx20 (by decide) (by decide) (by decide)).trans ?_
  refine Eq.trans (step_lift ['B', 'G', 'O', 'R'] (?_ : loopRun (honest ['B', 'O', 'P', 'Y']) 6 (some ['B', 'O', 'Y', 'P']) E20 [['B', 'G', 'O', 'R']] = (RunResult.solved ['B', 'O', 'P', 'Y'] 3, [['B', 'O', 'Y', 'P'], ['B', 'O', 'P', 'Y']]))) rfl
  refine (loopRun_step ['B', 'O', 'P', 'Y'] 6 5 ['B', 'O', 'Y', 'P'] E20 [['B', 'G', 'O', 'R']] 2 2 E23 ['B', 'O', 'P', 'Y'] [['B', 'G', 'O', 'R'], ['B', 'O', 'Y', 'P']] rfl ((calc_eq_fastP ['B', 'O', 'P', 'Y'] ['B', 'O', 'Y', 'P'] (by decide) (by decide)).trans (by decide)) (by decide) pe23 rfl nx23 (by decide) (by decide) (by decide)).trans ?_
  refine Eq.trans (step_lift ['B', 'O', 'Y', 'P'] (?_ : loopRun (honest ['B', 'O', 'P', 'Y']) 5 (some ['B', 'O', 'P', 'Y']) E23 [['B', 'G', 'O', 'R'], ['B', 'O', 'Y', 'P']] = (RunResult.solved ['B', 'O', 'P', 'Y'] 3, [['B', 'O', 'P', 'Y']]))) rfl
  exact loopRun_last ['B', 'O', 'P', 'Y'] 5 4 E23 [['B', 'G', 'O', 'R'], ['B', 'O', 'Y', 'P']] rfl rfl (by decide)

lemma rs24 : loopRun (honest ['B', 'R', 'G', 'O']) 7 none S0 [] =
    (RunResult.solved ['B', 'R', 'G', 'O'] 3, [['B', 'G', 'O', 'R'], ['B', 'O', 'R', 'G'], ['B', 'R', 'G', 'O']]) := by
  refine (loopRun_none' (honest ['B', 'R', 'G', 'O']) 7 S0 []).trans ?_
  refine (loopRun_step ['B', 'R', 'G', 'O'] 7 6 ['B', 'G', 'O', 'R'] S0 [] 3 1 E16 ['B', 'O', 'R', 'G'] [['B', 'G', 'O', 'R']] rfl ((calc_eq_fastP ['B', 'R', 'G', 'O'] ['B', 'G', 'O', 'R'] (by decide) (by decide)).trans (by decide)) (by decide) pe16 rfl nx16 (by decide) (by decide) (by decide)).trans ?_
  refine Eq.trans (step_lift ['B', 'G', 'O', 'R'] (?_ : loopRun (honest ['B', 'R', 'G', 'O']) 6 (some ['B', 'O', 'R', 'G']) E16 [['B', 'G', 'O', 'R']] = (RunResult.solved ['B', 'R', 'G', 'O'] 3, [['B', 'O', 'R', 'G'], ['B', 'R', 'G', 'O']]))) rfl
  refine (loopRun_step ['B', 'R', 'G', 'O'] 6 5 ['B', 'O', 'R', 'G'] E16 [['B', 'G', 'O', 'R']] 3 1 E24 ['B', 'R', 'G', 'O'] [['B', 'G', 'O', 'R'], ['B', 'O', 'R', 'G']] rfl ((calc_eq_fastP ['B', 'R', 'G', 'O'] ['B', 'O', 'R', 'G'] (by decide) (by decide)).trans (by decide)) (by decide) pe24 rfl nx24 (by decide) (by decide) (by decide)).trans ?_
  refine Eq.trans (step_lift ['B', 'O', 'R', 'G'] (?_ : loopRun (honest ['B', 'R', 'G', 'O']) 5 (some ['B', 'R', 'G', 'O']) E24 [['B', 'G', 'O', 'R'], ['B', 'O', 'R', 'G']] = (RunResult.solved ['B', 'R', 'G', 'O'] 3, [['B', 'R', 'G', 'O']]))) rfl
  exact loopRun_last ['B', 'R', 'G', 'O'] 5 4 E24 [['B', 'G', 'O', 'R'], ['B', 'O', 'R', 'G']] rfl rfl (by decide)

lemma rs25 : loopRun (honest ['B', 'R', 'G', 'Y']) 7 none S0 [] =
    (RunResult.solved ['B', 'R', 'G', 'Y'] 4, [['B', 'G', 'O', 'R'], ['B', 'O', 'R', 'Y'], ['B', 'O', 'Y', 'G'], ['B', 'R', 'G', 'Y']]) := by
  refine (loopRun_none' (honest ['B', 'R', 'G', 'Y']) 7 S0 []).trans ?_
  refine (loopRun_step ['B', 'R', 'G', 'Y'] 7 6 ['B', 'G', 'O', 'R'] S0 [] 2 1 E13 ['B', 'O', 'R', 'Y'] [['B', 'G', 'O', 'R']] rfl ((calc_eq_fastP ['B', 'R', 'G', 'Y'] ['B', 'G', 'O', 'R'] (by decide) (by decide)).trans (by decide)) (by decide) pe13 rfl nx13 (by decide) (by decide) (by decide)).trans ?_
  refine Eq.trans (step_lift ['B', 'G', 'O', 'R'] (?_ : loopRun (honest ['B', 'R', 'G', 'Y']) 6 (some ['B', 'O', 'R', 'Y']) E13 [['B', 'G', 'O', 'R']] = (RunResult.solved ['B', 'R', 'G', 'Y'] 4, [['B', 'O', 'R', 'Y'], ['B', 'O', 'Y', 'G'], ['B', 'R', 'G', 'Y']]))) rfl
  refine (loopRun_step ['B', 'R', 'G', 'Y'] 6 5 ['B', 'O', 'R', 'Y'] E13 [['B', 'G', 'O', 'R']] 1 2 E18 ['B', 'O', 'Y', 'G'] [['B', 'G', 'O', 'R'], ['B', 'O', 'R', 'Y']] rfl ((calc_eq_fastP ['B', 'R', 'G', 'Y'] ['B', 'O', 'R', 'Y'] (by decide) (by decide)).trans (by decide)) (by decide) pe18 rfl nx18 (by decide) (by decide) (by decide)).trans ?_
  refine Eq.trans (step_lift ['B', 'O', 'R', 'Y'] (?_ : loopRun (honest ['B', 'R', 'G', 'Y']) 5 (some ['B', 'O', 'Y', 'G']) E18 [['B', 'G', 'O', 'R'], ['B', 'O', 'R', 'Y']] = (RunResult.solved ['B', 'R', 'G', 'Y'] 4, [['B', 'O', 'Y', 'G'], ['B', 'R', 'G', 'Y']]))) rfl
  refine (loopRun_step ['B', 'R', 'G', 'Y'] 5 4 ['B', 'O', 'Y', 'G'] E18 [['B', 'G', 'O', 'R'], ['B', 'O', 'R', 'Y']] 2 1 [['B', 'R', 'G', 'Y']] ['B', 'R', 'G', 'Y'] [['B', 'G', 'O', 'R'], ['B', 'O', 'R', 'Y'], ['B', 'O', 'Y', 'G']] rfl ((calc_eq_fastP ['B', 'R', 'G', 'Y'] ['B', 'O', 'Y', 'G'] (by decide) (by decide)).trans (by decide)) (by decide) pe25 rfl (findNextGuess_singleton ['B', 'R', 'G', 'Y'] [['B', 'G', 'O', 'R'], ['B', 'O', 'R', 'Y'], ['B', 'O', 'Y', 'G']]) (by decide) (by decide) (by decide)).trans ?_
  refine Eq.trans (step_lift ['B', 'O', 'Y', 'G'] (?_ : loopRun (honest ['B', 'R', 'G', 'Y']) 4 (some ['B', 'R', 'G', 'Y']) [['B', 'R', 'G', 'Y']] [['B', 'G', 'O', 'R'], ['B', 'O', 'R', 'Y'], ['B', 'O', 'Y', 'G']] = (RunResult.solved ['B', 'R', 'G', 'Y'] 4, [['B', 'R', 'G', 'Y']]))) rfl
  exact loopRun_last ['B', 'R', 'G', 'Y'] 4 3 [['B', 'R', 'G', 'Y']] [['B', 'G', 'O', 'R'], ['B', 'O', 'R', 'Y'], ['B', 'O', 'Y', 'G']] rfl rfl (by decide)

lemma rs26 : loopRun (honest ['B', 'R', 'G', 'P']) 7 none S0 [] =
    (RunResult.solved ['B', 'R', 'G', 'P'] 3, [['B', 'G', 'O', 'R'], ['B', 'O', 'R', 'Y'], ['B', 'R', 'G', 'P']]) := by
  refine (loopRun_none' (honest ['B', 'R', 'G', 'P']) 7 S0 []).trans ?_
  refine (loopRun_step ['B', 'R', 'G', 'P'] 7 6 ['B', 'G', 'O', 'R'] S0 [] 2 1 E13 ['B', 'O', 'R', 'Y'] [['B', 'G', 'O', 'R']] rfl ((calc_eq_fastP ['B', 'R', 'G', 'P'] ['B', 'G', 'O', 'R'] (by decide) (by decide)).trans (by decide)) (by decide) pe13 rfl nx13 (by decide) (by decide) (by decide)).trans ?_
  refine Eq.trans (step_lift ['B', 'G', 'O', 'R'] (?_ : loopRun (honest ['B', 'R', 'G', 'P']) 6 (some ['B', 'O', 'R', 'Y']) E13 [['B', 'G', 'O', 'R']] = (RunResult.solved ['B', 'R', 'G', 'P'] 3, [['B', 'O', 'R', 'Y'], ['B', 'R', 'G', 'P']]))) rfl
  refine (loopRun_step ['B', 'R', 'G', 'P'] 6 5 ['B', 'O', 'R', 'Y'] E13 [['B', 'G', 'O', 'R']] 1 1 E26 ['B', 'R', 'G', 'P'] [['B', 'G', 'O', 'R'], ['B', 'O', 'R', 'Y']] rfl ((calc_eq_fastP ['B', 'R', 'G', 'P'] ['B', 'O', 'R', 'Y'] (by decide) (by decide)).trans (by decide)) (by decide) pe26 rfl nx26 (by decide) (by decide) (by decide)).trans ?_
  refine Eq.trans (step_lift ['B', 'O', 'R', 'Y'] (?_ : loopRun (honest ['B', 'R', 'G', 'P']) 5 (some ['B', 'R', 'G', 'P']) E26 [['B', 'G', 'O', 'R'], ['B', 'O', 'R', 'Y']] = (RunResult.solved ['B', 'R', 'G', 'P'] 3, [['B', 'R', 'G', 'P']]))) rfl
  exact loopRun_last ['B', 'R', 'G', 'P'] 5 4 E26 [['B', 'G', 'O', 'R'], ['B', 'O', 'R', 'Y']] rfl rfl (by decide)

lemma rs27 : loopRun (honest ['B', 'R', 'O', 'G']) 7 none S0 [] =
    (RunResult.solved ['B', 'R', 'O', 'G'] 4, [['B', 'G', 'O', 'R'], ['B', 'G', 'R', 'O'], ['B', 'O', 'G', 'R'], ['B', 'R', 'O', 'G']]) := by
  refine (loopRun_none' (honest ['B', 'R', 'O', 'G']) 7 S0 []).trans ?_
  refine (loopRun_step ['B', 'R', 'O', 'G'] 7 6 ['B', 'G', 'O', 'R'] S0 [] 2 2 E2 ['B', 'G', 'R', 'O'] [['B', 'G', 'O', 'R']] rfl ((calc_eq_fastP ['B', 'R', 'O', 'G'] ['B', 'G', 'O', 'R'] (by decide) (by decide)).trans (by decide)) (by decide) pe2 rfl nx2 (by decide) (by decide) (by decide)).trans ?_
  refine Eq.trans (step_lift ['B', 'G', 'O', 'R'] (?_ : loopRun (honest ['B', 'R', 'O', 'G']) 6 (some ['B', 'G', 'R', 'O']) E2 [['B', 'G', 'O', 'R']] = (RunResult.solved ['B', 'R', 'O', 'G'] 4, [['B', 'G', 'R', 'O'], ['B', 'O', 'G', 'R'], ['B', 'R', 'O', 'G']]))) rfl
  refine (loopRun_step ['B', 'R', 'O', 'G'] 6 5 ['B', 'G', 'R', 'O'] E2 [['B', 'G', 'O', 'R']] 3 1 E12 ['B', 'O', 'G', 'R'] [['B', 'G', 'O', 'R'], ['B', 'G', 'R', 'O']] rfl ((calc_eq_fastP ['B', 'R', 'O', 'G'] ['B', 'G', 'R', 'O'] (by decide) (by decide)).trans (by decide)) (by decide) pe12 rfl nx12 (by decide) (by decide) (by decide)).trans ?_
  refine Eq.trans (step_lift ['B', 'G', 'R', 'O'] (?_ : loopRun (honest ['B', 'R', 'O', 'G']) 5 (some ['B', 'O', 'G', 'R']) E12 [['B', 'G', 'O', 'R'], ['B', 'G', 'R', 'O']] = (RunResult.solved ['B', 'R', 'O', 'G'] 4, [['B', 'O', 'G', 'R'], ['B', 'R', 'O', 'G']]))) rfl
  refine (loopRun_step ['B', 'R', 'O', 'G'] 5 4 ['B', 'O', 'G', 'R'] E12 [['B', 'G', 'O', 'R'], ['B', 'G', 'R', 'O']] 3 1 E27 ['B', 'R', 'O', 'G'] [['B', 'G', 'O', 'R'], ['B', 'G', 'R', 'O'], ['B', 'O', 'G', 'R']] rfl ((calc_eq_fastP ['B', 'R', 'O', 'G'] ['B', 'O', 'G', 'R'] (by decide) (by decide)).trans (by decide)) (by decide) pe27 rfl nx27 (by decide) (by decide) (by decide)).trans ?_
  refine Eq.trans (step_lift ['B', 'O', 'G', 'R'] (?_ : loopRun (honest ['B', 'R', 'O', 'G']) 4 (some ['B', 'R', 'O', 'G']) E27 [['B', 'G', 'O', 'R'], ['B', 'G', 'R', 'O'], ['B', 'O', 'G', 'R']] = (RunResult.solved ['B', 'R', 'O', 'G'] 4, [['B', 'R', 'O', 'G']]))) rfl
  exact loopRun_last ['B', 'R', 'O', 'G'] 4 3 E27 [['B', 'G', 'O', 'R'], ['B', 'G', 'R', 'O'], ['B', 'O', 'G', 'R']] rfl rfl (by decide)

lemma rs28 : loopRun (honest ['B', 'R', 'O', 'Y']) 7 none S0 [] =
    (RunResult.solved ['B', 'R', 'O', 'Y'] 3, [['B', 'G', 'O', 'R'], ['B', 'G', 'R', 'Y'], ['B', 'R', 'O', 'Y']]) := by
  refine (loopRun_none' (honest ['B', 'R', 'O', 'Y']) 7 S0 []).trans ?_
  refine (loopRun_step ['B', 'R', 'O', 'Y'] 7 6 ['B', 'G', 'O', 'R'] S0 [] 1 2 E3 ['B', 'G', 'R', 'Y'] [['B', 'G', 'O', 'R']] rfl ((calc_eq_fastP ['B', 'R', 'O', 'Y'] ['B', 'G', 'O', 'R'] (by decide) (by decide)).trans (by decide)) (by decide) pe3 rfl nx3 (by decide) (by decide) (by decide)).trans ?_
  refine Eq.trans (step_lift ['B', 'G', 'O', 'R'] (?_ : loopRun (honest ['B', 'R', 'O', 'Y']) 6 (some ['B', 'G', 'R', 'Y']) E3 [['B', 'G', 'O', 'R']] = (RunResult.solved ['B', 'R', 'O', 'Y'] 3, [['B', 'G', 'R', 'Y'], ['B', 'R', 'O', 'Y']]))) rfl
  refine (loopRun_step ['B', 'R', 'O', 'Y'] 6 5 ['B', 'G', 'R', 'Y'] E3 [['B', 'G', 'O', 'R']] 1 2 E5 ['B', 'R', 'O', 'Y'] [['B', 'G', 'O', 'R'], ['B', 'G', 'R', 'Y']] rfl ((calc_eq_fastP ['B', 'R', 'O', 'Y'] ['B', 'G', 'R', 'Y'] (by decide) (by decide)).trans (by decide)) (by decide) pe5 rfl nx5 (by decide) (by decide) (by decide)).trans ?_
  refine Eq.trans (step_lift ['B', 'G', 'R', 'Y'] (?_ : loopRun (honest ['B', 'R', 'O', 'Y']) 5 (some ['B', 'R', 'O', 'Y']) E5 [['B', 'G', 'O', 'R'], ['B', 'G', 'R', 'Y']] = (RunResult.solved ['B', 'R', 'O', 'Y'] 3, [['B', 'R', 'O', 'Y']]))) rfl
  exact loopRun_last ['B', 'R', 'O', 'Y'] 5 4 E5 [['B', 'G', 'O', 'R'], ['B', 'G', 'R', 'Y']] rfl rfl (by decide)

lemma rs29 : loopRun (honest ['B', 'R', 'O', 'P']) 7 none S0 [] =
    (RunResult.solved ['B', 'R', 'O', 'P'] 4, [['B', 'G', 'O', 'R'], ['B', 'G', 'R', 'Y'], ['B', 'O', 'P', 'R'], ['B', 'R', 'O', 'P']]) := by
  refine (loopRun_none' (honest ['B', 'R', 'O', 'P']) 7 S0 []).trans ?_
  refine (loopRun_step ['B', 'R', 'O', 'P'] 7 6 ['B', 'G', 'O', 'R'] S0 [] 1 2 E3 ['B', 'G', 'R', 'Y'] [['B', 'G', 'O', 'R']] rfl ((calc_eq_fastP ['B', 'R', 'O', 'P'] ['B', 'G', 'O', 'R'] (by decide) (by decide)).trans (by decide)) (by decide) pe3 rfl nx3 (by decide) (by decide) (by decide)).trans ?_
  refine Eq.trans (step_lift ['B', 'G', 'O', 'R'] (?_ : loopRun (honest ['B', 'R', 'O', 'P']) 6 (some ['B', 'G', 'R', 'Y']) E3 [['B', 'G', 'O', 'R']] = (RunResult.solved ['B', 'R', 'O', 'P'] 4, [['B', 'G', 'R', 'Y'], ['B', 'O', 'P', 'R'], ['B', 'R', 'O', 'P']]))) rfl
  refine (loopRun_step ['B', 'R', 'O', 'P'] 6 5 ['B', 'G', 'R', 'Y'] E3 [['B', 'G', 'O', 'R']] 1 1 E22 ['B', 'O', 'P', 'R'] [['B', 'G', 'O', 'R'], ['B', 'G', 'R', 'Y']] rfl ((calc_eq_fastP ['B', 'R', 'O', 'P'] ['B', 'G', 'R', 'Y'] (by decide) (by decide)).trans (by decide)) (by decide) pe22 rfl nx22 (by decide) (by decide) (by decide)).trans ?_
  refine Eq.trans (step_lift ['B', 'G', 'R', 'Y'] (?_ : loopRun (honest ['B', 'R', 'O', 'P']) 5 (some ['B', 'O', 'P', 'R']) E22 [['B', 'G', 'O', 'R'], ['B', 'G', 'R', 'Y']] = (RunResult.solved ['B', 'R', 'O', 'P'] 4, [['B', 'O', 'P', 'R'], ['B', 'R', 'O', 'P']]))) rfl
  refine (loopRun_step ['B', 'R', 'O', 'P'] 5 4 ['B', 'O', 'P', 'R'] E22 [['B', 'G', 'O', 'R'], ['B', 'G', 'R', 'Y']] 3 1 [['B', 'R', 'O', 'P']] ['B', 'R', 'O', 'P'] [['B', 'G', 'O', 'R'], ['B', 'G', 'R', 'Y'], ['B', 'O', 'P', 'R']] rfl ((calc_eq_fastP ['B', 'R', 'O', 'P'] ['B', 'O', 'P', 'R'] (by decide) (by decide)).trans (by decide)) (by decide) pe28 rfl (findNextGuess_singleton ['B', 'R', 'O', 'P'] [['B', 'G', 'O', 'R'], ['B', 'G', 'R', 'Y'], ['B', 'O', 'P', 'R']]) (by decide) (by decide) (by decide)).trans ?_
  refine Eq.trans (step_lift ['B', 'O', 'P', 'R'] (?_ : loopRun (honest ['B', 'R', 'O', 'P']) 4 (some ['B', 'R', 'O', 'P']) [['B', 'R', 'O', 'P']] [['B', 'G', 'O', 'R'], ['B', 'G', 'R', 'Y'], ['B', 'O', 'P', 'R']] = (RunResult.solved ['B', 'R', 'O', 'P'] 4, [['B', 'R', 'O', 'P']]))) rfl
  exact loopRun_last ['B', 'R', 'O', 'P'] 4 3 [['B', 'R', 'O', 'P']] [['B', 'G', 'O', 'R'], ['B', 'G', 'R', 'Y'], ['B', 'O', 'P', 'R']] rfl rfl (by decide)

lemma rs30 : loopRun (honest ['B', 'R', 'Y', 'G']) 7 none S0 [] =
    (RunResult.solved ['B', 'R', 'Y', 'G'] 4, [['B', 'G', 'O', 'R'], ['B', 'O', 'R', 'Y'], ['G', 'R', 'O', 'Y'], ['B', 'R', 'Y', 'G']]) := by
  refine (loopRun_none' (honest ['B', 'R', 'Y', 'G']) 7 S0 []).trans ?_
  refine (loopRun_step ['B', 'R', 'Y', 'G'] 7 6 ['B', 'G', 'O', 'R'] S0 [] 2 1 E13 ['B', 'O', 'R', 'Y'] [['B', 'G', 'O', 'R']] rfl ((calc_eq_fastP ['B', 'R', 'Y', 'G'] ['B', 'G', 'O', 'R'] (by decide) (by decide)).trans (by decide)) (by decide) pe13 rfl nx13 (by decide) (by decide) (by decide)).trans ?_
  refine Eq.trans (step_lift ['B', 'G', 'O', 'R'] (?_ : loopRun (honest ['B', 'R', 'Y', 'G']) 6 (some ['B', 'O', 'R', 'Y']) E13 [['B', 'G', 'O', 'R']] = (RunResult.solved ['B', 'R', 'Y', 'G'] 4, [['B', 'O', 'R', 'Y'], ['G', 'R', 'O', 'Y'], ['B', 'R', 'Y', 'G']]))) rfl
  refine (loopRun_step ['B', 'R', 'Y', 'G'] 6 5 ['B', 'O', 'R', 'Y'] E13 [['B', 'G', 'O', 'R']] 2 1 E29 ['G', 'R', 'O', 'Y'] [['B', 'G', 'O', 'R'], ['B', 'O', 'R', 'Y']] rfl ((calc_eq_fastP ['B', 'R', 'Y', 'G'] ['B', 'O', 'R', 'Y'] (by decide) (by decide)).trans (by decide)) (by decide) pe29 rfl nx29 (by decide) (by decide) (by decide)).trans ?_
  refine Eq.trans (step_lift ['B', 'O', 'R', 'Y'] (?_ : loopRun (honest ['B', 'R', 'Y', 'G']) 5 (some ['G', 'R', 'O', 'Y']) E29 [['B', 'G', 'O', 'R'], ['B', 'O', 'R', 'Y']] = (RunResult.solved ['B', 'R', 'Y', 'G'] 4, [['G', 'R', 'O', 'Y'], ['B', 'R', 'Y', 'G']]))) rfl
  refine (loopRun_step ['B', 'R', 'Y', 'G'] 5 4 ['G', 'R', 'O', 'Y'] E29 [['B', 'G', 'O', 'R'], ['B', 'O', 'R', 'Y']] 2 1 E30 ['B', 'R', 'Y', 'G'] [['B', 'G', 'O', 'R'], ['B', 'O', 'R', 'Y'], ['G', 'R', 'O', 'Y']] rfl ((calc_eq_fastP ['B', 'R', 'Y', 'G'] ['G', 'R', 'O', 'Y'] (by decide) (by decide)).trans (by decide)) (by decide) pe30 rfl nx30 (by decide) (by decide) (by decide)).trans ?_
  refine Eq.trans (step_lift ['G', 'R', 'O', 'Y'] (?_ : loopRun (honest ['B', 'R', 'Y', 'G']) 4 (some ['B', 'R', 'Y', 'G']) E30 [['B', 'G', 'O', 'R'], ['B', 'O', 'R', 'Y'], ['G', 'R', 'O', 'Y']] = (RunResult.solved ['B', 'R', 'Y', 'G'] 4, [['B', 'R', 'Y', 'G']]))) rfl
  exact loopRun_last ['B', 'R', 'Y', 'G'] 4 3 E30 [['B', 'G', 'O', 'R'], ['B', 'O', 'R', 'Y'], ['G', 'R', 'O', 'Y']] rfl rfl (by decide)

lemma rs31 : loopRun (honest ['B', 'R', 'Y', 'O']) 7 none S0 [] =
    (RunResult.solved ['B', 'R', 'Y', 'O'] 3, [['B', 'G', 'O', 'R'], ['B', 'O', 'R', 'Y'], ['B', 'R', 'Y', 'O']]) := by
  refine (loopRun_none' (honest ['B', 'R', 'Y', 'O']) 7 S0 []).trans ?_
  refine (loopRun_step ['B', 'R', 'Y', 'O'] 7 6 ['B', 'G', 'O', 'R'] S0 [] 2 1 E13 ['B', 'O', 'R', 'Y'] [['B', 'G', 'O', 'R']] rfl ((calc_eq_fastP ['B', 'R', 'Y', 'O'] ['B', 'G', 'O', 'R'] (by decide) (by decide)).trans (by decide)) (by decide) pe13 rfl nx13 (by decide) (by decide) (by decide)).trans ?_
  refine Eq.trans (step_lift ['B', 'G', 'O', 'R'] (?_ : loopRun (honest ['B', 'R', 'Y', 'O']) 6 (some ['B', 'O', 'R', 'Y']) E13 [['B', 'G', 'O', 'R']] = (RunResult.solved ['B', 'R', 'Y', 'O'] 3, [['B', 'O', 'R', 'Y'], ['B', 'R', 'Y', 'O']]))) rfl
  refine (loopRun_step ['B', 'R', 'Y', 'O'] 6 5 ['B', 'O', 'R', 'Y'] E13 [['B', 'G', 'O', 'R']] 3 1 E31 ['B', 'R', 'Y', 'O'] [['B', 'G', 'O', 'R'], ['B', 'O', 'R', 'Y']] rfl ((calc_eq_fastP ['B', 'R', 'Y', 'O'] ['B', 'O', 'R', 'Y'] (by decide) (by decide)).trans (by decide)) (by decide) pe31 rfl nx31 (by decide) (by decide) (by decide)).trans ?_
  refine Eq.trans (step_lift ['B', 'O', 'R', 'Y'] (?_ : loopRun (honest ['B', 'R', 'Y', 'O']) 5 (some ['B', 'R', 'Y', 'O']) E31 [['B', 'G', 'O', 'R'], ['B', 'O', 'R', 'Y']] = (RunResult.solved ['B', 'R', 'Y', 'O'] 3, [['B', 'R', 'Y', 'O']]))) rfl
  exact loopRun_last ['B', 'R', 'Y', 'O'] 5 4 E31 [['B', 'G', 'O', 'R'], ['B', 'O', 'R', 'Y']] rfl rfl (by decide)

lemma rs32 : loopRun (honest ['B', 'R', 'Y', 'P']) 7 none S0 [] =
    (RunResult.solved ['B', 'R', 'Y', 'P'] 3, [['B', 'G', 'O', 'R'], ['B', 'O', 'Y', 'P'], ['B', 'R', 'Y', 'P']]) := by
  refine (loopRun_none' (honest ['B', 'R', 'Y', 'P']) 7 S0 []).trans ?_
  refine (loopRun_step ['B', 'R', 'Y', 'P'] 7 6 ['B', 'G', 'O', 'R'] S0 [] 1 1 E20 ['B', 'O', 'Y', 'P'] [['B', 'G', 'O', 'R']] rfl ((calc_eq_fastP ['B', 'R', 'Y', 'P'] ['B', 'G', 'O', 'R'] (by decide) (by decide)).trans (by decide)) (by decide) pe20 rfl nx20 (by decide) (by decide) (by decide)).trans ?_
  refine Eq.trans (step_lift ['B', 'G', 'O', 'R'] (?_ : loopRun (honest ['B', 'R', 'Y', 'P']) 6 (some ['B', 'O', 'Y', 'P']) E20 [['B', 'G', 'O', 'R']] = (RunResult.solved ['B', 'R', 'Y', 'P'] 3, [['B', 'O', 'Y', 'P'], ['B', 'R', 'Y', 'P']]))) rfl
  refine (loopRun_step ['B', 'R', 'Y', 'P'] 6 5 ['B', 'O', 'Y', 'P'] E20 [['B', 'G', 'O', 'R']] 0 3 [['B', 'R', 'Y', 'P']] ['B', 'R', 'Y', 'P'] [['B', 'G', 'O', 'R'], ['B', 'O', 'Y', 'P']] rfl ((calc_eq_fastP ['B', 'R', 'Y', 'P'] ['B', 'O', 'Y', 'P'] (by decide) (by decide)).trans (by decide)) (by decide) pe32 rfl (findNextGuess_singleton ['B', 'R', 'Y', 'P'] [['B', 'G', 'O', 'R'], ['B', 'O', 'Y', 'P']]) (by decide) (by decide) (by decide)).trans ?_
  refine Eq.trans (step_lift ['B', 'O', 'Y', 'P'] (?_ : loopRun (honest ['B', 'R', 'Y', 'P']) 5 (some ['B', 'R', 'Y', 'P']) [['B', 'R', 'Y', 'P']] [['B', 'G', 'O', 'R'], ['B', 'O', 'Y', 'P']] = (RunResult.solved ['B', 'R', 'Y', 'P'] 3, [['B', 'R', 'Y', 'P']]))) rfl
  exact loopRun_last ['B', 'R', 'Y', 'P'] 5 4 [['B', 'R', 'Y', 'P']] [['B', 'G', 'O', 'R'], ['B', 'O', 'Y', 'P']] rfl rfl (by decide)

lemma rs33 : loopRun (honest ['B', 'R', 'P', 'G']) 7 none S0 [] =
    (RunResult.solved ['B', 'R', 'P', 'G'] 4, [['B', 'G', 'O', 'R'], ['B', 'O', 'R', 'Y'], ['B', 'R', 'G', 'P'], ['B', 'R', 'P', 'G']]) := by
  refine (loopRun_none' (honest ['B', 'R', 'P', 'G']) 7 S0 []).trans ?_
  refine (loopRun_step ['B', 'R', 'P', 'G'] 7 6 ['B', 'G', 'O', 'R'] S0 [] 2 1 E13 ['B', 'O', 'R', 'Y'] [['B', 'G', 'O', 'R']] rfl ((calc_eq_fastP ['B', 'R', 'P', 'G'] ['B', 'G', 'O', 'R'] (by decide) (by decide)).trans (by decide)) (by decide) pe13 rfl nx13 (by decide) (by decide) (by decide)).trans ?_
  refine Eq.trans (step_lift ['B', 'G', 'O', 'R'] (?_ : loopRun (honest ['B', 'R', 'P', 'G']) 6 (some ['B', 'O', 'R', 'Y']) E13 [['B', 'G', 'O', 'R']] = (RunResult.solved ['B', 'R', 'P', 'G'] 4, [['B', 'O', 'R', 'Y'], ['B', 'R', 'G', 'P'], ['B', 'R', 'P', 'G']]))) rfl
  refine (loopRun_step ['B', 'R', 'P', 'G'] 6 5 ['B', 'O', 'R', 'Y'] E13 [['B', 'G', 'O', 'R']] 1 1 E26 ['B', 'R', 'G', 'P'] [['B', 'G', 'O', 'R'], ['B', 'O', 'R', 'Y']] rfl ((calc_eq_fastP ['B', 'R', 'P', 'G'] ['B', 'O', 'R', 'Y'] (by decide) (by decide)).trans (by decide)) (by decide) pe26 rfl nx26 (by decide) (by decide) (by decide)).trans ?_
  refine Eq.trans (step_lift ['B', 'O', 'R', 'Y'] (?_ : loopRun (honest ['B', 'R', 'P', 'G']) 5 (some ['B', 'R', 'G', 'P']) E26 [['B', 'G', 'O', 'R'], ['B', 'O', 'R', 'Y']] = (RunResult.solved ['B', 'R', 'P', 'G'] 4, [['B', 'R', 'G', 'P'], ['B', 'R', 'P', 'G']]))) rfl
  refine (loopRun_step ['B', 'R', 'P', 'G'] 5 4 ['B', 'R', 'G', 'P'] E26 [['B', 'G', 'O', 'R'], ['B', 'O', 'R', 'Y']] 2 2 [['B', 'R', 'P', 'G']] ['B', 'R', 'P', 'G'] [['B', 'G', 'O', 'R'], ['B', 'O', 'R', 'Y'], ['B', 'R', 'G', 'P']] rfl ((calc_eq_fastP ['B', 'R', 'P', 'G'] ['B', 'R', 'G', 'P'] (by decide) (by decide)).trans (by decide)) (by decide) pe33 rfl (findNextGuess_singleton ['B', 'R', 'P', 'G'] [['B', 'G', 'O', 'R'], ['B', 'O', 'R', 'Y'], ['B', 'R', 'G', 'P']]) (by decide) (by decide) (by decide)).trans ?_
  refine Eq.trans (step_lift ['B', 'R', 'G', 'P'] (?_ : loopRun (honest ['B', 'R', 'P', 'G']) 4 (some ['B', 'R', 'P', 'G']) [['B', 'R', 'P', 'G']] [['B', 'G', 'O', 'R'], ['B', 'O', 'R', 'Y'], ['B', 'R', 'G', 'P']] = (RunResult.solved ['B', 'R', 'P', 'G'] 4, [['B', 'R', 'P', 'G']]))) rfl
  exact loopRun_last ['B', 'R', 'P', 'G'] 4 3 [['B', 'R', 'P', 'G']] [['B', 'G', 'O', 'R'], ['B', 'O', 'R', 'Y'], ['B', 'R', 'G', 'P']] rfl rfl (by decide)

lemma rs34 : loopRun (honest ['B', 'R', 'P', 'O']) 7 none S0 [] =
    (RunResult.solved ['B', 'R', 'P', 'O'] 4, [['B', 'G', 'O', 'R'], ['B', 'O', 'R', 'Y'], ['G', 'R', 'O', 'Y'], ['B', 'R', 'P', 'O']]) := by
  refine (loopRun_none' (honest ['B', 'R', 'P', 'O']) 7 S0 []).trans ?_
  refine (loopRun_step ['B', 'R', 'P', 'O'] 7 6 ['B', 'G', 'O', 'R'] S0 [] 2 1 E13 ['B', 'O', 'R', 'Y'] [['B', 'G', 'O', 'R']] rfl ((calc_eq_fastP ['B', 'R', 'P', 'O'] ['B', 'G', 'O', 'R'] (by decide) (by decide)).trans (by decide)) (by decide) pe13 rfl nx13 (by decide) (by decide) (by decide)).trans ?_
  refine Eq.trans (step_lift ['B', 'G', 'O', 'R'] (?_ : loopRun (honest ['B', 'R', 'P', 'O']) 6 (some ['B', 'O', 'R', 'Y']) E13 [['B', 'G', 'O', 'R']] = (RunResult.solved ['B', 'R', 'P', 'O'] 4, [['B', 'O', 'R', 'Y'], ['G', 'R', 'O', 'Y'], ['B', 'R', 'P', 'O']]))) rfl
  refine (loopRun_step ['B', 'R', 'P', 'O'] 6 5 ['B', 'O', 'R', 'Y'] E13 [['B', 'G', 'O', 'R']] 2 1 E29 ['G', 'R', 'O', 'Y'] [['B', 'G', 'O', 'R'], ['B', 'O', 'R', 'Y']] rfl ((calc_eq_fastP ['B', 'R', 'P', 'O'] ['B', 'O', 'R', 'Y'] (by decide) (by decide)).trans (by decide)) (by decide) pe29 rfl nx29 (by decide) (by decide) (by decide)).trans ?_
  refine Eq.trans (step_lift ['B', 'O', 'R', 'Y'] (?_ : loopRun (honest ['B', 'R', 'P', 'O']) 5 (some ['G', 'R', 'O', 'Y']) E29 [['B', 'G', 'O', 'R'], ['B', 'O', 'R', 'Y']] = (RunResult.solved ['B', 'R', 'P', 'O'] 4, [['G', 'R', 'O', 'Y'], ['B', 'R', 'P', 'O']]))) rfl
  refine (loopRun_step ['B', 'R', 'P', 'O'] 5 4 ['G', 'R', 'O', 'Y'] E29 [['B', 'G', 'O', 'R'], ['B', 'O', 'R', 'Y']] 1 1 [['B', 'R', 'P', 'O']] ['B', 'R', 'P', 'O'] [['B', 'G', 'O', 'R'], ['B', 'O', 'R', 'Y'], ['G', 'R', 'O', 'Y']] rfl ((calc_eq_fastP ['B', 'R', 'P', 'O'] ['G', 'R', 'O', 'Y'] (by decide) (by decide)).trans (by decide)) (by decide) pe34 rfl (findNextGuess_singleton ['B', 'R', 'P', 'O'] [['B', 'G', 'O', 'R'], ['B', 'O', 'R', 'Y'], ['G', 'R', 'O', 'Y']]) (by decide) (by decide) (by decide)).trans ?_
  refine Eq.trans (step_lift ['G', 'R', 'O', 'Y'] (?_ : loopRun (honest ['B', 'R', 'P', 'O']) 4 (some ['B', 'R', 'P', 'O']) [['B', 'R', 'P', 'O']] [['B', 'G', 'O', 'R'], ['B', 'O', 'R', 'Y'], ['G', 'R', 'O', 'Y']] = (RunResult.solved ['B', 'R', 'P', 'O'] 4, [['B', 'R', 'P', 'O']]))) rfl
  exact loopRun_last ['B', 'R', 'P', 'O'] 4 3 [['B', 'R', 'P', 'O']] [['B', 'G', 'O', 'R'], ['B', 'O', 'R', 'Y'], ['G', 'R', 'O', 'Y']] rfl rfl (by decide)

lemma rs35 : loopRun (honest ['B', 'R', 'P', 'Y']) 7 none S0 [] =
    (RunResult.solved ['B', 'R', 'P', 'Y'] 4, [['B', 'G', 'O', 'R'], ['B', 'O', 'Y', 'P'], ['B', 'Y', 'P', 'G'], ['B', 'R', 'P', 'Y']]) := by
  refine (loopRun_none' (honest ['B', 'R', 'P', 'Y']) 7 S0 []).trans ?_
  refine (loopRun_step ['B', 'R', 'P', 'Y'] 7 6 ['B', 'G', 'O', 'R'] S0 [] 1 1 E20 ['B', 'O', 'Y', 'P'] [['B', 'G', 'O', 'R']] rfl ((calc_eq_fastP ['B', 'R', 'P', 'Y'] ['B', 'G', 'O', 'R'] (by decide) (by decide)).trans (by decide)) (by decide) pe20 rfl nx20 (by decide) (by decide) (by decide)).trans ?_
  refine Eq.trans (step_lift ['B', 'G', 'O', 'R'] (?_ : loopRun (honest ['B', 'R', 'P', 'Y']) 6 (some ['B', 'O', 'Y', 'P']) E20 [['B', 'G', 'O', 'R']] = (RunResult.solved ['B', 'R', 'P', 'Y'] 4, [['B', 'O', 'Y', 'P'], ['B', 'Y', 'P', 'G'], ['B', 'R', 'P', 'Y']]))) rfl
  refine (loopRun_step ['B', 'R', 'P', 'Y'] 6 5 ['B', 'O', 'Y', 'P'] E20 [['B', 'G', 'O', 'R']] 2 1 E35 ['B', 'Y', 'P', 'G'] [['B', 'G', 'O', 'R'], ['B', 'O', 'Y', 'P']] rfl ((calc_eq_fastP ['B', 'R', 'P', 'Y'] ['B', 'O', 'Y', 'P'] (by decide) (by decide)).trans (by decide)) (by decide) pe35 rfl nx35 (by decide) (by decide) (by decide)).trans ?_
  refine Eq.trans (step_lift ['B', 'O', 'Y', 'P'] (?_ : loopRun (honest ['B', 'R', 'P', 'Y']) 5 (some ['B', 'Y', 'P', 'G']) E35 [['B', 'G', 'O', 'R'], ['B', 'O', 'Y', 'P']] = (RunResult.solved ['B', 'R', 'P', 'Y'] 4, [['B', 'Y', 'P', 'G'], ['B', 'R', 'P', 'Y']]))) rfl
  refine (loopRun_step ['B', 'R', 'P', 'Y'] 5 4 ['B', 'Y', 'P', 'G'] E35 [['B', 'G', 'O', 'R'], ['B', 'O', 'Y', 'P']] 1 2 [['B', 'R', 'P', 'Y']] ['B', 'R', 'P', 'Y'] [['B', 'G', 'O', 'R'], ['B', 'O', 'Y', 'P'], ['B', 'Y', 'P', 'G']] rfl ((calc_eq_fastP ['B', 'R', 'P', 'Y'] ['B', 'Y', 'P', 'G'] (by decide) (by decide)).trans (by decide)) (by decide) pe36 rfl (findNextGuess_singleton ['B', 'R', 'P', 'Y'] [['B', 'G', 'O', 'R'], ['B', 'O', 'Y', 'P'], ['B', 'Y', 'P', 'G']]) (by decide) (by decide) (by decide)).trans ?_
  refine Eq.trans (step_lift ['B', 'Y', 'P', 'G'] (?_ : loopRun (honest ['B', 'R', 'P', 'Y']) 4 (some ['B', 'R', 'P', 'Y']) [['B', 'R', 'P', 'Y']] [['B', 'G', 'O', 'R'], ['B', 'O', 'Y', 'P'], ['B', 'Y', 'P', 'G']] = (RunResult.solved ['B', 'R', 'P', 'Y'] 4, [['B', 'R', 'P', 'Y']]))) rfl
  exact loopRun_last ['B', 'R', 'P', 'Y'] 4 3 [['B', 'R', 'P', 'Y']] [['B', 'G', 'O', 'R'], ['B', 'O', 'Y', 'P'], ['B', 'Y', 'P', 'G']] rfl rfl (by decide)

lemma rs36 : loopRun (honest ['B', 'Y', 'G', 'O']) 7 none S0 [] =
    (RunResult.solved ['B', 'Y', 'G', 'O'] 4, [['B', 'G', 'O', 'R'], ['B', 'O', 'R', 'Y'], ['G', 'R', 'O', 'Y'], ['B', 'Y', 'G', 'O']]) := by
  refine (loopRun_none' (honest ['B', 'Y', 'G', 'O']) 7 S0 []).trans ?_
  refine (loopRun_step ['B', 'Y', 'G', 'O'] 7 6 ['B', 'G', 'O', 'R'] S0 [] 2 1 E13 ['B', 'O', 'R', 'Y'] [['B', 'G', 'O', 'R']] rfl ((calc_eq_fastP ['B', 'Y', 'G', 'O'] ['B', 'G', 'O', 'R'] (by decide) (by decide)).trans (by decide)) (by decide) pe13 rfl nx13 (by decide) (by decide) (by decide)).trans ?_
  refine Eq.trans (step_lift ['B', 'G', 'O', 'R'] (?_ : loopRun (honest ['B', 'Y', 'G', 'O']) 6 (some ['B', 'O', 'R', 'Y']) E13 [['B', 'G', 'O', 'R']] = (RunResult.solved ['B', 'Y', 'G', 'O'] 4, [['B', 'O', 'R', 'Y'], ['G', 'R', 'O', 'Y'], ['B', 'Y', 'G', 'O']]))) rfl
  refine (loopRun_step ['B', 'Y', 'G', 'O'] 6 5 ['B', 'O', 'R', 'Y'] E13 [['B', 'G', 'O', 'R']] 2 1 E29 ['G', 'R', 'O', 'Y'] [['B', 'G', 'O', 'R'], ['B', 'O', 'R', 'Y']] rfl ((calc_eq_fastP ['B', 'Y', 'G', 'O'] ['B', 'O', 'R', 'Y'] (by decide) (by decide)).trans (by decide)) (by decide) pe29 rfl nx29 (by decide) (by decide) (by decide)).trans ?_
  refine Eq.trans (step_lift ['B', 'O', 'R', 'Y'] (?_ : loopRun (honest ['B', 'Y', 'G', 'O']) 5 (some ['G', 'R', 'O', 'Y']) E29 [['B', 'G', 'O', 'R'], ['B', 'O', 'R', 'Y']] = (RunResult.solved ['B', 'Y', 'G', 'O'] 4, [['G', 'R', 'O', 'Y'], ['B', 'Y', 'G', 'O']]))) rfl
  refine (loopRun_step ['B', 'Y', 'G', 'O'] 5 4 ['G', 'R', 'O', 'Y'] E29 [['B', 'G', 'O', 'R'], ['B', 'O', 'R', 'Y']] 3 0 E37 ['B', 'Y', 'G', 'O'] [['B', 'G', 'O', 'R'], ['B', 'O', 'R', 'Y'], ['G', 'R', 'O', 'Y']] rfl ((calc_eq_fastP ['B', 'Y', 'G', 'O'] ['G', 'R', 'O', 'Y'] (by decide) (by decide)).trans (by decide)) (by decide) pe37 rfl nx37 (by decide) (by decide) (by decide)).trans ?_
  refine Eq.trans (step_lift ['G', 'R', 'O', 'Y'] (?_ : loopRun (honest ['B', 'Y', 'G', 'O']) 4 (some ['B', 'Y', 'G', 'O']) E37 [['B', 'G', 'O', 'R'], ['B', 'O', 'R', 'Y'], ['G', 'R', 'O', 'Y']] = (RunResult.solved ['B', 'Y', 'G', 'O'] 4, [['B', 'Y', 'G', 'O']]))) rfl
  exact loopRun_last ['B', 'Y', 'G', 'O'] 4 3 E37 [['B', 'G', 'O', 'R'], ['B', 'O', 'R', 'Y'], ['G', 'R', 'O', 'Y']] rfl rfl (by decide)

lemma rs37 : loopRun (honest ['B', 'Y', 'G', 'R']) 7 none S0 [] =
    (RunResult.solved ['B', 'Y', 'G', 'R'] 3, [['B', 'G', 'O', 'R'], ['B', 'G', 'R', 'Y'], ['B', 'Y', 'G', 'R']]) := by
  refine (loopRun_none' (honest ['B', 'Y', 'G', 'R']) 7 S0 []).trans ?_
  refine (loopRun_step ['B', 'Y', 'G', 'R'] 7 6 ['B', 'G', 'O', 'R'] S0 [] 1 2 E3 ['B', 'G', 'R', 'Y'] [['B', 'G', 'O', 'R']] rfl ((calc_eq_fastP ['B', 'Y', 'G', 'R'] ['B', 'G', 'O', 'R'] (by decide) (by decide)).trans (by decide)) (by decide) pe3 rfl nx3 (by decide) (by decide) (by decide)).trans ?_
  refine Eq.trans (step_lift ['B', 'G', 'O', 'R'] (?_ : loopRun (honest ['B', 'Y', 'G', 'R']) 6 (some ['B', 'G', 'R', 'Y']) E3 [['B', 'G', 'O', 'R']] = (RunResult.solved ['B', 'Y', 'G', 'R'] 3, [['B', 'G', 'R', 'Y'], ['B', 'Y', 'G', 'R']]))) rfl
  refine (loopRun_step ['B', 'Y', 'G', 'R'] 6 5 ['B', 'G', 'R', 'Y'] E3 [['B', 'G', 'O', 'R']] 3 1 E38 ['B', 'Y', 'G', 'R'] [['B', 'G', 'O', 'R'], ['B', 'G', 'R', 'Y']] rfl ((calc_eq_fastP ['B', 'Y', 'G', 'R'] ['B', 'G', 'R', 'Y'] (by decide) (by decide)).trans (by decide)) (by decide) pe38 rfl nx38 (by decide) (by decide) (by decide)).trans ?_
  refine Eq.trans (step_lift ['B', 'G', 'R', 'Y'] (?_ : loopRun (honest ['B', 'Y', 'G', 'R']) 5 (some ['B', 'Y', 'G', 'R']) E38 [['B', 'G', 'O', 'R'], ['B', 'G', 'R', 'Y']] = (RunResult.solved ['B', 'Y', 'G', 'R'] 3, [['B', 'Y', 'G', 'R']]))) rfl
  exact loopRun_last ['B', 'Y', 'G', 'R'] 5 4 E38 [['B', 'G', 'O', 'R'], ['B', 'G', 'R', 'Y']] rfl rfl (by decide)

lemma rs38 : loopRun (honest ['B', 'Y', 'G', 'P']) 7 none S0 [] =
    (RunResult.solved ['B', 'Y', 'G', 'P'] 3, [['B', 'G', 'O', 'R'], ['B', 'O', 'Y', 'P'], ['B', 'Y', 'G', 'P']]) := by
  refine (loopRun_none' (honest ['B', 'Y', 'G', 'P']) 7 S0 []).trans ?_
  refine (loopRun_step ['B', 'Y', 'G', 'P'] 7 6 ['B', 'G', 'O', 'R'] S0 [] 1 1 E20 ['B', 'O', 'Y', 'P'] [['B', 'G', 'O', 'R']] rfl ((calc_eq_fastP ['B', 'Y', 'G', 'P'] ['B', 'G', 'O', 'R'] (by decide) (by decide)).trans (by decide)) (by decide) pe20 rfl nx20 (by decide) (by decide) (by decide)).trans ?_
  refine Eq.trans (step_lift ['B', 'G', 'O', 'R'] (?_ : loopRun (honest ['B', 'Y', 'G', 'P']) 6 (some ['B', 'O', 'Y', 'P']) E20 [['B', 'G', 'O', 'R']] = (RunResult.solved ['B', 'Y', 'G', 'P'] 3, [['B', 'O', 'Y', 'P'], ['B', 'Y', 'G', 'P']]))) rfl
  refine (loopRun_step ['B', 'Y', 'G', 'P'] 6 5 ['B', 'O', 'Y', 'P'] E20 [['B', 'G', 'O', 'R']] 1 2 E39 ['B', 'Y', 'G', 'P'] [['B', 'G', 'O', 'R'], ['B', 'O', 'Y', 'P']] rfl ((calc_eq_fastP ['B', 'Y', 'G', 'P'] ['B', 'O', 'Y', 'P'] (by decide) (by decide)).trans (by decide)) (by decide) pe39 rfl nx39 (by decide) (by decide) (by decide)).trans ?_
  refine Eq.trans (step_lift ['B', 'O', 'Y', 'P'] (?_ : loopRun (honest ['B', 'Y', 'G', 'P']) 5 (some ['B', 'Y', 'G', 'P']) E39 [['B', 'G', 'O', 'R'], ['B', 'O', 'Y', 'P']] = (RunResult.solved ['B', 'Y', 'G', 'P'] 3, [['B', 'Y', 'G', 'P']]))) rfl
  exact loopRun_last ['B', 'Y', 'G', 'P'] 5 4 E39 [['B', 'G', 'O', 'R'], ['B', 'O', 'Y', 'P']] rfl rfl (by decide)

lemma rs39 : loopRun (honest ['B', 'Y', 'O', 'G']) 7 none S0 [] =
    (RunResult.solved ['B', 'Y', 'O', 'G'] 4, [['B', 'G', 'O', 'R'], ['B', 'G', 'R', 'Y'], ['B', 'O', 'Y', 'R'], ['B', 'Y', 'O', 'G']]) := by
  refine (loopRun_none' (honest ['B', 'Y', 'O', 'G']) 7 S0 []).trans ?_
  refine (loopRun_step ['B', 'Y', 'O', 'G'] 7 6 ['B', 'G', 'O', 'R'] S0 [] 1 2 E3 ['B', 'G', 'R', 'Y'] [['B', 'G', 'O', 'R']] rfl ((calc_eq_fastP ['B', 'Y', 'O', 'G'] ['B', 'G', 'O', 'R'] (by decide) (by decide)).trans (by decide)) (by decide) pe3 rfl nx3 (by decide) (by decide) (by decide)).trans ?_
  refine Eq.trans (step_lift ['B', 'G', 'O', 'R'] (?_ : loopRun (honest ['B', 'Y', 'O', 'G']) 6 (some ['B', 'G', 'R', 'Y']) E3 [['B', 'G', 'O', 'R']] = (RunResult.solved ['B', 'Y', 'O', 'G'] 4, [['B', 'G', 'R', 'Y'], ['B', 'O', 'Y', 'R'], ['B', 'Y', 'O', 'G']]))) rfl
  refine (loopRun_step ['B', 'Y', 'O', 'G'] 6 5 ['B', 'G', 'R', 'Y'] E3 [['B', 'G', 'O', 'R']] 2 1 E19 ['B', 'O', 'Y', 'R'] [['B', 'G', 'O', 'R'], ['B', 'G', 'R', 'Y']] rfl ((calc_eq_fastP ['B', 'Y', 'O', 'G'] ['B', 'G', 'R', 'Y'] (by decide) (by decide)).trans (by decide)) (by decide) pe19 rfl nx19 (by decide) (by decide) (by decide)).trans ?_
  refine Eq.trans (step_lift ['B', 'G', 'R', 'Y'] (?_ : loopRun (honest ['B', 'Y', 'O', 'G']) 5 (some ['B', 'O', 'Y', 'R']) E19 [['B', 'G', 'O', 'R'], ['B', 'G', 'R', 'Y']] = (RunResult.solved ['B', 'Y', 'O', 'G'] 4, [['B', 'O', 'Y', 'R'], ['B', 'Y', 'O', 'G']]))) rfl
  refine (loopRun_step ['B', 'Y', 'O', 'G'] 5 4 ['B', 'O', 'Y', 'R'] E19 [['B', 'G', 'O', 'R'], ['B', 'G', 'R', 'Y']] 2 1 [['B', 'Y', 'O', 'G']] ['B', 'Y', 'O', 'G'] [['B', 'G', 'O', 'R'], ['B', 'G', 'R', 'Y'], ['B', 'O', 'Y', 'R']] rfl ((calc_eq_fastP ['B', 'Y', 'O', 'G'] ['B', 'O', 'Y', 'R'] (by decide) (by decide)).trans (by decide)) (by decide) pe40 rfl (findNextGuess_singleton ['B', 'Y', 'O', 'G'] [['B', 'G', 'O', 'R'], ['B', 'G', 'R', 'Y'], ['B', 'O', 'Y', 'R']]) (by decide) (by decide) (by decide)).trans ?_
  refine Eq.trans (step_lift ['B', 'O', 'Y', 'R'] (?_ : loopRun (honest ['B', 'Y', 'O', 'G']) 4 (some ['B', 'Y', 'O', 'G']) [['B', 'Y', 'O', 'G']] [['B', 'G', 'O', 'R'], ['B', 'G', 'R', 'Y'], ['B', 'O', 'Y', 'R']] = (RunResult.solved ['B', 'Y', 'O', 'G'] 4, [['B', 'Y', 'O', 'G']]))) rfl
  exact loopRun_last ['B', 'Y', 'O', 'G'] 4 3 [['B', 'Y', 'O', 'G']] [['B', 'G', 'O', 'R'], ['B', 'G', 'R', 'Y'], ['B', 'O', 'Y', 'R']] rfl rfl (by decide)

lemma rs40 : loopRun (honest ['B', 'Y', 'O', 'R']) 7 none S0 [] =
    (RunResult.solved ['B', 'Y', 'O', 'R'] 4, [['B', 'G', 'O', 'R'], ['B', 'G', 'O', 'Y'], ['B', 'G', 'Y', 'R'], ['B', 'Y', 'O', 'R']]) := by
  refine (loopRun_none' (honest ['B', 'Y', 'O', 'R']) 7 S0 []).trans ?_
  refine (loopRun_step ['B', 'Y', 'O', 'R'] 7 6 ['B', 'G', 'O', 'R'] S0 [] 0 3 E0 ['B', 'G', 'O', 'Y'] [['B', 'G', 'O', 'R']] rfl ((calc_eq_fastP ['B', 'Y', 'O', 'R'] ['B', 'G', 'O', 'R'] (by decide) (by decide)).trans (by decide)) (by decide) pe0 rfl nx0 (by decide) (by decide) (by decide)).trans ?_
  refine Eq.trans (step_lift ['B', 'G', 'O', 'R'] (?_ : loopRun (honest ['B', 'Y', 'O', 'R']) 6 (some ['B', 'G', 'O', 'Y']) E0 [['B', 'G', 'O', 'R']] = (RunResult.solved ['B', 'Y', 'O', 'R'] 4, [['B', 'G', 'O', 'Y'], ['B', 'G', 'Y', 'R'], ['B', 'Y', 'O', 'R']]))) rfl
  refine (loopRun_step ['B', 'Y', 'O', 'R'] 6 5 ['B', 'G', 'O', 'Y'] E0 [['B', 'G', 'O', 'R']] 1 2 E7 ['B', 'G', 'Y', 'R'] [['B', 'G', 'O', 'R'], ['B', 'G', 'O', 'Y']] rfl ((calc_eq_fastP ['B', 'Y', 'O', 'R'] ['B', 'G', 'O', 'Y'] (by decide) (by decide)).trans (by decide)) (by decide) pe7 rfl nx7 (by decide) (by decide) (by decide)).trans ?_
  refine Eq.trans (step_lift ['B', 'G', 'O', 'Y'] (?_ : loopRun (honest ['B', 'Y', 'O', 'R']) 5 (some ['B', 'G', 'Y', 'R']) E7 [['B', 'G', 'O', 'R'], ['B', 'G', 'O', 'Y']] = (RunResult.solved ['B', 'Y', 'O', 'R'] 4, [['B', 'G', 'Y', 'R'], ['B', 'Y', 'O', 'R']]))) rfl
  refine (loopRun_step ['B', 'Y', 'O', 'R'] 5 4 ['B', 'G', 'Y', 'R'] E7 [['B', 'G', 'O', 'R'], ['B', 'G', 'O', 'Y']] 1 2 E41 ['B', 'Y', 'O', 'R'] [['B', 'G', 'O', 'R'], ['B', 'G', 'O', 'Y'], ['B', 'G', 'Y', 'R']] rfl ((calc_eq_fastP ['B', 'Y', 'O', 'R'] ['B', 'G', 'Y', 'R'] (by decide) (by decide)).trans (by decide)) (by decide) pe41 rfl nx41 (by decide) (by decide) (by decide)).trans ?_
  refine Eq.trans (step_lift ['B', 'G', 'Y', 'R'] (?_ : loopRun (honest ['B', 'Y', 'O', 'R']) 4 (some ['B', 'Y', 'O', 'R']) E41 [['B', 'G', 'O', 'R'], ['B', 'G', 'O', 'Y'], ['B', 'G', 'Y', 'R']] = (RunResult.solved ['B', 'Y', 'O', 'R'] 4, [['B', 'Y', 'O', 'R']]))) rfl
  exact loopRun_last ['B', 'Y', 'O', 'R'] 4 3 E41 [['B', 'G', 'O', 'R'], ['B', 'G', 'O', 'Y'], ['B', 'G', 'Y', 'R']] rfl rfl (by decide)

lemma rs41 : loopRun (honest ['B', 'Y', 'O', 'P']) 7 none S0 [] =
    (RunResult.solved ['B', 'Y', 'O', 'P'] 3, [['B', 'G', 'O', 'R'], ['B', 'G', 'Y', 'P'], ['B', 'Y', 'O', 'P']]) := by
  refine (loopRun_none' (honest ['B', 'Y', 'O', 'P']) 7 S0 []).trans ?_
  refine (loopRun_step ['B', 'Y', 'O', 'P'] 7 6 ['B', 'G', 'O', 'R'] S0 [] 0 2 E8 ['B', 'G', 'Y', 'P'] [['B', 'G', 'O', 'R']] rfl ((calc_eq_fastP ['B', 'Y', 'O', 'P'] ['B', 'G', 'O', 'R'] (by decide) (by decide)).trans (by decide)) (by decide) pe8 rfl nx8 (by decide) (by decide) (by decide)).trans ?_
  refine Eq.trans (step_lift ['B', 'G', 'O', 'R'] (?_ : loopRun (honest ['B', 'Y', 'O', 'P']) 6 (some ['B', 'G', 'Y', 'P']) E8 [['B', 'G', 'O', 'R']] = (RunResult.solved ['B', 'Y', 'O', 'P'] 3, [['B', 'G', 'Y', 'P'], ['B', 'Y', 'O', 'P']]))) rfl
  refine (loopRun_step ['B', 'Y', 'O', 'P'] 6 5 ['B', 'G', 'Y', 'P'] E8 [['B', 'G', 'O', 'R']] 1 2 E42 ['B', 'Y', 'O', 'P'] [['B', 'G', 'O', 'R'], ['B', 'G', 'Y', 'P']] rfl ((calc_eq_fastP ['B', 'Y', 'O', 'P'] ['B', 'G', 'Y', 'P'] (by decide) (by decide)).trans (by decide)) (by decide) pe42 rfl nx42 (by decide) (by decide) (by decide)).trans ?_
  refine Eq.trans (step_lift ['B', 'G', 'Y', 'P'] (?_ : loopRun (honest ['B', 'Y', 'O', 'P']) 5 (some ['B', 'Y', 'O', 'P']) E42 [['B', 'G', 'O', 'R'], ['B', 'G', 'Y', 'P']] = (RunResult.solved ['B', 'Y', 'O', 'P'] 3, [['B', 'Y', 'O', 'P']]))) rfl
  exact loopRun_last ['B', 'Y', 'O', 'P'] 5 4 E42 [['B', 'G', 'O', 'R'], ['B', 'G', 'Y', 'P']] rfl rfl (by decide)

lemma rs42 : loopRun (honest ['B', 'Y', 'R', 'G']) 7 none S0 [] =
    (RunResult.solved ['B', 'Y', 'R', 'G'] 4, [['B', 'G', 'O', 'R'], ['B', 'O', 'R', 'Y'], ['B', 'O', 'Y', 'G'], ['B', 'Y', 'R', 'G']]) := by
  refine (loopRun_none' (honest ['B', 'Y', 'R', 'G']) 7 S0 []).trans ?_
  refine (loopRun_step ['B', 'Y', 'R', 'G'] 7 6 ['B', 'G', 'O', 'R'] S0 [] 2 1 E13 ['B', 'O', 'R', 'Y'] [['B', 'G', 'O', 'R']] rfl ((calc_eq_fastP ['B', 'Y', 'R', 'G'] ['B', 'G', 'O', 'R'] (by decide) (by decide)).trans (by decide)) (by decide) pe13 rfl nx13 (by decide) (by decide) (by decide)).trans ?_
  refine Eq.trans (step_lift ['B', 'G', 'O', 'R'] (?_ : loopRun (honest ['B', 'Y', 'R', 'G']) 6 (some ['B', 'O', 'R', 'Y']) E13 [['B', 'G', 'O', 'R']] = (RunResult.solved ['B', 'Y', 'R', 'G'] 4, [['B', 'O', 'R', 'Y'], ['B', 'O', 'Y', 'G'], ['B', 'Y', 'R', 'G']]))) rfl
  refine (loopRun_step ['B', 'Y', 'R', 'G'] 6 5 ['B', 'O', 'R', 'Y'] E13 [['B', 'G', 'O', 'R']] 1 2 E18 ['B', 'O', 'Y', 'G'] [['B', 'G', 'O', 'R'], ['B', 'O', 'R', 'Y']] rfl ((calc_eq_fastP ['B', 'Y', 'R', 'G'] ['B', 'O', 'R', 'Y'] (by decide) (by decide)).trans (by decide)) (by decide) pe18 rfl nx18 (by decide) (by decide) (by decide)).trans ?_
  refine Eq.trans (step_lift ['B', 'O', 'R', 'Y'] (?_ : loopRun (honest ['B', 'Y', 'R', 'G']) 5 (some ['B', 'O', 'Y', 'G']) E18 [['B', 'G', 'O', 'R'], ['B', 'O', 'R', 'Y']] = (RunResult.solved ['B', 'Y', 'R', 'G'] 4, [['B', 'O', 'Y', 'G'], ['B', 'Y', 'R', 'G']]))) rfl
  refine (loopRun_step ['B', 'Y', 'R', 'G'] 5 4 ['B', 'O', 'Y', 'G'] E18 [['B', 'G', 'O', 'R'], ['B', 'O', 'R', 'Y']] 1 2 [['B', 'Y', 'R', 'G']] ['B', 'Y', 'R', 'G'] [['B', 'G', 'O', 'R'], ['B', 'O', 'R', 'Y'], ['B', 'O', 'Y', 'G']] rfl ((calc_eq_fastP ['B', 'Y', 'R', 'G'] ['B', 'O', 'Y', 'G'] (by decide) (by decide)).trans (by decide)) (by decide) pe43 rfl (findNextGuess_singleton ['B', 'Y', 'R', 'G'] [['B', 'G', 'O', 'R'], ['B', 'O', 'R', 'Y'], ['B', 'O', 'Y', 'G']]) (by decide) (by decide) (by decide)).trans ?_
  refine Eq.trans (step_lift ['B', 'O', 'Y', 'G'] (?_ : loopRun (honest ['B', 'Y', 'R', 'G']) 4 (some ['B', 'Y', 'R', 'G']) [['B', 'Y', 'R', 'G']] [['B', 'G', 'O', 'R'], ['B', 'O', 'R', 'Y'], ['B', 'O', 'Y', 'G']] = (RunResult.solved ['B', 'Y', 'R', 'G'] 4, [['B', 'Y', 'R', 'G']]))) rfl
  exact loopRun_last ['B', 'Y', 'R', 'G'] 4 3 [['B', 'Y', 'R', 'G']] [['B', 'G', 'O', 'R'], ['B', 'O', 'R', 'Y'], ['B', 'O', 'Y', 'G']] rfl rfl (by decide)

lemma rs43 : loopRun (honest ['B', 'Y', 'R', 'O']) 7 none S0 [] =
    (RunResult.solved ['B', 'Y', 'R', 'O'] 3, [['B', 'G', 'O', 'R'], ['B', 'O', 'R', 'Y'], ['B', 'Y', 'R', 'O']]) := by
  refine (loopRun_none' (honest ['B', 'Y', 'R', 'O']) 7 S0 []).trans ?_
  refine (loopRun_step ['B', 'Y', 'R', 'O'] 7 6 ['B', 'G', 'O', 'R'] S0 [] 2 1 E13 ['B', 'O', 'R', 'Y'] [['B', 'G', 'O', 'R']] rfl ((calc_eq_fastP ['B', 'Y', 'R', 'O'] ['B', 'G', 'O', 'R'] (by decide) (by decide)).trans (by decide)) (by decide) pe13 rfl nx13 (by decide) (by decide) (by decide)).trans ?_
  refine Eq.trans (step_lift ['B', 'G', 'O', 'R'] (?_ : loopRun (honest ['B', 'Y', 'R', 'O']) 6 (some ['B', 'O', 'R', 'Y']) E13 [['B', 'G', 'O', 'R']] = (RunResult.solved ['B', 'Y', 'R', 'O'] 3, [['B', 'O', 'R', 'Y'], ['B', 'Y', 'R', 'O']]))) rfl
  refine (loopRun_step ['B', 'Y', 'R', 'O'] 6 5 ['B', 'O', 'R', 'Y'] E13 [['B', 'G', 'O', 'R']] 2 2 [['B', 'Y', 'R', 'O']] ['B', 'Y', 'R', 'O'] [['B', 'G', 'O', 'R'], ['B', 'O', 'R', 'Y']] rfl ((calc_eq_fastP ['B', 'Y', 'R', 'O'] ['B', 'O', 'R', 'Y'] (by decide) (by decide)).trans (by decide)) (by decide) pe44 rfl (findNextGuess_singleton ['B', 'Y', 'R', 'O'] [['B', 'G', 'O', 'R'], ['B', 'O', 'R', 'Y']]) (by decide) (by decide) (by decide)).trans ?_
  refine Eq.trans (step_lift ['B', 'O', 'R', 'Y'] (?_ : loopRun (honest ['B', 'Y', 'R', 'O']) 5 (some ['B', 'Y', 'R', 'O']) [['B', 'Y', 'R', 'O']] [['B', 'G', 'O', 'R'], ['B', 'O', 'R', 'Y']] = (RunResult.solved ['B', 'Y', 'R', 'O'] 3, [['B', 'Y', 'R', 'O']]))) rfl
  exact loopRun_last ['B', 'Y', 'R', 'O'] 5 4 [['B', 'Y', 'R', 'O']] [['B', 'G', 'O', 'R'], ['B', 'O', 'R', 'Y']] rfl rfl (by decide)

lemma rs44 : loopRun (honest ['B', 'Y', 'R', 'P']) 7 none S0 [] =
    (RunResult.solved ['B', 'Y', 'R', 'P'] 4, [['B', 'G', 'O', 'R'], ['B', 'O', 'Y', 'P'], ['B', 'Y', 'G', 'P'], ['B', 'Y', 'R', 'P']]) := by
  refine (loopRun_none' (honest ['B', 'Y', 'R', 'P']) 7 S0 []).trans ?_
  refine (loopRun_step ['B', 'Y', 'R', 'P'] 7 6 ['B', 'G', 'O', 'R'] S0 [] 1 1 E20 ['B', 'O', 'Y', 'P'] [['B', 'G', 'O', 'R']] rfl ((calc_eq_fastP ['B', 'Y', 'R', 'P'] ['B', 'G', 'O', 'R'] (by decide) (by decide)).trans (by decide)) (by decide) pe20 rfl nx20 (by decide) (by decide) (by decide)).trans ?_
  refine Eq.trans (step_lift ['B', 'G', 'O', 'R'] (?_ : loopRun (honest ['B', 'Y', 'R', 'P']) 6 (some ['B', 'O', 'Y', 'P']) E20 [['B', 'G', 'O', 'R']] = (RunResult.solved ['B', 'Y', 'R', 'P'] 4, [['B', 'O', 'Y', 'P'], ['B', 'Y', 'G', 'P'], ['B', 'Y', 'R', 'P']]))) rfl
  refine (loopRun_step ['B', 'Y', 'R', 'P'] 6 5 ['B', 'O', 'Y', 'P'] E20 [['B', 'G', 'O', 'R']] 1 2 E39 ['B', 'Y', 'G', 'P'] [['B', 'G', 'O', 'R'], ['B', 'O', 'Y', 'P']] rfl ((calc_eq_fastP ['B', 'Y', 'R', 'P'] ['B', 'O', 'Y', 'P'] (by decide) (by decide)).trans (by decide)) (by decide) pe39 rfl nx39 (by decide) (by decide) (by decide)).trans ?_
  refine Eq.trans (step_lift ['B', 'O', 'Y', 'P'] (?_ : loopRun (honest ['B', 'Y', 'R', 'P']) 5 (some ['B', 'Y', 'G', 'P']) E39 [['B', 'G', 'O', 'R'], ['B', 'O', 'Y', 'P']] = (RunResult.solved ['B', 'Y', 'R', 'P'] 4, [['B', 'Y', 'G', 'P'], ['B', 'Y', 'R', 'P']]))) rfl
  refine (loopRun_step ['B', 'Y', 'R', 'P'] 5 4 ['B', 'Y', 'G', 'P'] E39 [['B', 'G', 'O', 'R'], ['B', 'O', 'Y', 'P']] 0 3 [['B', 'Y', 'R', 'P']] ['B', 'Y', 'R', 'P'] [['B', 'G', 'O', 'R'], ['B', 'O', 'Y', 'P'], ['B', 'Y', 'G', 'P']] rfl ((calc_eq_fastP ['B', 'Y', 'R', 'P'] ['B', 'Y', 'G', 'P'] (by decide) (by decide)).trans (by decide)) (by decide) pe45 rfl (findNextGuess_singleton ['B', 'Y', 'R', 'P'] [['B', 'G', 'O', 'R'], ['B', 'O', 'Y', 'P'], ['B', 'Y', 'G', 'P']]) (by decide) (by decide) (by decide)).trans ?_
  refine Eq.trans (step_lift ['B', 'Y', 'G', 'P'] (?_ : loopRun (honest ['B', 'Y', 'R', 'P']) 4 (some ['B', 'Y', 'R', 'P']) [['B', 'Y', 'R', 'P']] [['B', 'G', 'O', 'R'], ['B', 'O', 'Y', 'P'], ['B', 'Y', 'G', 'P']] = (RunResult.solved ['B', 'Y', 'R', 'P'] 4, [['B', 'Y', 'R', 'P']]))) rfl
  exact loopRun_last ['B', 'Y', 'R', 'P'] 4 3 [['B', 'Y', 'R', 'P']] [['B', 'G', 'O', 'R'], ['B', 'O', 'Y', 'P'], ['B', 'Y', 'G', 'P']] rfl rfl (by decide)

lemma rs45 : loopRun (honest ['B', 'Y', 'P', 'G']) 7 none S0 [] =
    (RunResult.solved ['B', 'Y', 'P', 'G'] 3, [['B', 'G', 'O', 'R'], ['B', 'O', 'Y', 'P'], ['B', 'Y', 'P', 'G']]) := by
  refine (loopRun_none' (honest ['B', 'Y', 'P', 'G']) 7 S0 []).trans ?_
  refine (loopRun_step ['B', 'Y', 'P', 'G'] 7 6 ['B', 'G', 'O', 'R'] S0 [] 1 1 E20 ['B', 'O', 'Y', 'P'] [['B', 'G', 'O', 'R']] rfl ((calc_eq_fastP ['B', 'Y', 'P', 'G'] ['B', 'G', 'O', 'R'] (by decide) (by decide)).trans (by decide)) (by decide) pe20 rfl nx20 (by decide) (by decide) (by decide)).trans ?_
  refine Eq.trans (step_lift ['B', 'G', 'O', 'R'] (?_ : loopRun (honest ['B', 'Y', 'P', 'G']) 6 (some ['B', 'O', 'Y', 'P']) E20 [['B', 'G', 'O', 'R']] = (RunResult.solved ['B', 'Y', 'P', 'G'] 3, [['B', 'O', 'Y', 'P'], ['B', 'Y', 'P', 'G']]))) rfl
  refine (loopRun_step ['B', 'Y', 'P', 'G'] 6 5 ['B', 'O', 'Y', 'P'] E20 [['B', 'G', 'O', 'R']] 2 1 E35 ['B', 'Y', 'P', 'G'] [['B', 'G', 'O', 'R'], ['B', 'O', 'Y', 'P']] rfl ((calc_eq_fastP ['B', 'Y', 'P', 'G'] ['B', 'O', 'Y', 'P'] (by decide) (by decide)).trans (by decide)) (by decide) pe35 rfl nx35 (by decide) (by decide) (by decide)).trans ?_
  refine Eq.trans (step_lift ['B', 'O', 'Y', 'P'] (?_ : loopRun (honest ['B', 'Y', 'P', 'G']) 5 (some ['B', 'Y', 'P', 'G']) E35 [['B', 'G', 'O', 'R'], ['B', 'O', 'Y', 'P']] = (RunResult.solved ['B', 'Y', 'P', 'G'] 3, [['B', 'Y', 'P', 'G']]))) rfl
  exact loopRun_last ['B', 'Y', 'P', 'G'] 5 4 E35 [['B', 'G', 'O', 'R'], ['B', 'O', 'Y', 'P']] rfl rfl (by decide)

lemma rs46 : loopRun (honest ['B', 'Y', 'P', 'O']) 7 none S0 [] =
    (RunResult.solved ['B', 'Y', 'P', 'O'] 3, [['B', 'G', 'O', 'R'], ['B', 'O', 'Y', 'P'], ['B', 'Y', 'P', 'O']]) := by
  refine (loopRun_none' (honest ['B', 'Y', 'P', 'O']) 7 S0 []).trans ?_
  refine (loopRun_step ['B', 'Y', 'P', 'O'] 7 6 ['B', 'G', 'O', 'R'] S0 [] 1 1 E20 ['B', 'O', 'Y', 'P'] [['B', 'G', 'O', 'R']] rfl ((calc_eq_fastP ['B', 'Y', 'P', 'O'] ['B', 'G', 'O', 'R'] (by decide) (by decide)).trans (by decide)) (by decide) pe20 rfl nx20 (by decide) (by decide) (by decide)).trans ?_
  refine Eq.trans (step_lift ['B', 'G', 'O', 'R'] (?_ : loopRun (honest ['B', 'Y', 'P', 'O']) 6 (some ['B', 'O', 'Y', 'P']) E20 [['B', 'G', 'O', 'R']] = (RunResult.solved ['B', 'Y', 'P', 'O'] 3, [['B', 'O', 'Y', 'P'], ['B', 'Y', 'P', 'O']]))) rfl
  refine (loopRun_step ['B', 'Y', 'P', 'O'] 6 5 ['B', 'O', 'Y', 'P'] E20 [['B', 'G', 'O', 'R']] 3 1 E46 ['B', 'Y', 'P', 'O'] [['B', 'G', 'O', 'R'], ['B', 'O', 'Y', 'P']] rfl ((calc_eq_fastP ['B', 'Y', 'P', 'O'] ['B', 'O', 'Y', 'P'] (by decide) (by decide)).trans (by decide)) (by decide) pe46 rfl nx46 (by decide) (by decide) (by decide)).trans ?_
  refine Eq.trans (step_lift ['B', 'O', 'Y', 'P'] (?_ : loopRun (honest ['B', 'Y', 'P', 'O']) 5 (some ['B', 'Y', 'P', 'O']) E46 [['B', 'G', 'O', 'R'], ['B', 'O', 'Y', 'P']] = (RunResult.solved ['B', 'Y', 'P', 'O'] 3, [['B', 'Y', 'P', 'O']]))) rfl
  exact loopRun_last ['B', 'Y', 'P', 'O'] 5 4 E46 [['B', 'G', 'O', 'R'], ['B', 'O', 'Y', 'P']] rfl rfl (by decide)

lemma rs47 : loopRun (honest ['B', 'Y', 'P', 'R']) 7 none S0 [] =
    (RunResult.solved ['B', 'Y', 'P', 'R'] 3, [['B', 'G', 'O', 'R'], ['B', 'G', 'Y', 'P'], ['B', 'Y', 'P', 'R']]) := by
  refine (loopRun_none' (honest ['B', 'Y', 'P', 'R']) 7 S0 []).trans ?_
  refine (loopRun_step ['B', 'Y', 'P', 'R'] 7 6 ['B', 'G', 'O', 'R'] S0 [] 0 2 E8 ['B', 'G', 'Y', 'P'] [['B', 'G', 'O', 'R']] rfl ((calc_eq_fastP ['B', 'Y', 'P', 'R'] ['B', 'G', 'O', 'R'] (by decide) (by decide)).trans (by decide)) (by decide) pe8 rfl nx8 (by decide) (by decide) (by decide)).trans ?_
  refine Eq.trans (step_lift ['B', 'G', 'O', 'R'] (?_ : loopRun (honest ['B', 'Y', 'P', 'R']) 6 (some ['B', 'G', 'Y', 'P']) E8 [['B', 'G', 'O', 'R']] = (RunResult.solved ['B', 'Y', 'P', 'R'] 3, [['B', 'G', 'Y', 'P'], ['B', 'Y', 'P', 'R']]))) rfl
  refine (loopRun_step ['B', 'Y', 'P', 'R'] 6 5 ['B', 'G', 'Y', 'P'] E8 [['B', 'G', 'O', 'R']] 2 1 E47 ['B', 'Y', 'P', 'R'] [['B', 'G', 'O', 'R'], ['B', 'G', 'Y', 'P']] rfl ((calc_eq_fastP ['B', 'Y', 'P', 'R'] ['B', 'G', 'Y', 'P'] (by decide) (by decide)).trans (by decide)) (by decide) pe47 rfl nx47 (by decide) (by decide) (by decide)).trans ?_
  refine Eq.trans (step_lift ['B', 'G', 'Y', 'P'] (?_ : loopRun (honest ['B', 'Y', 'P', 'R']) 5 (some ['B', 'Y', 'P', 'R']) E47 [['B', 'G', 'O', 'R'], ['B', 'G', 'Y', 'P']] = (RunResult.solved ['B', 'Y', 'P', 'R'] 3, [['B', 'Y', 'P', 'R']]))) rfl
  exact loopRun_last ['B', 'Y', 'P', 'R'] 5 4 E47 [['B', 'G', 'O', 'R'], ['B', 'G', 'Y', 'P']] rfl rfl (by decide)

lemma rs48 : loopRun (honest ['B', 'P', 'G', 'O']) 7 none S0 [] =
    (RunResult.solved ['B', 'P', 'G', 'O'] 4, [['B', 'G', 'O', 'R'], ['B', 'O', 'R', 'Y'], ['B', 'R', 'G', 'P'], ['B', 'P', 'G', 'O']]) := by
  refine (loopRun_none' (honest ['B', 'P', 'G', 'O']) 7 S0 []).trans ?_
  refine (loopRun_step ['B', 'P', 'G', 'O'] 7 6 ['B', 'G', 'O', 'R'] S0 [] 2 1 E13 ['B', 'O', 'R', 'Y'] [['B', 'G', 'O', 'R']] rfl ((calc_eq_fastP ['B', 'P', 'G', 'O'] ['B', 'G', 'O', 'R'] (by decide) (by decide)).trans (by decide)) (by decide) pe13 rfl nx13 (by decide) (by decide) (by decide)).trans ?_
  refine Eq.trans (step_lift ['B', 'G', 'O', 'R'] (?_ : loopRun (honest ['B', 'P', 'G', 'O']) 6 (some ['B', 'O', 'R', 'Y']) E13 [['B', 'G', 'O', 'R']] = (RunResult.solved ['B', 'P', 'G', 'O'] 4, [['B', 'O', 'R', 'Y'], ['B', 'R', 'G', 'P'], ['B', 'P', 'G', 'O']]))) rfl
  refine (loopRun_step ['B', 'P', 'G', 'O'] 6 5 ['B', 'O', 'R', 'Y'] E13 [['B', 'G', 'O', 'R']] 1 1 E26 ['B', 'R', 'G', 'P'] [['B', 'G', 'O', 'R'], ['B', 'O', 'R', 'Y']] rfl ((calc_eq_fastP ['B', 'P', 'G', 'O'] ['B', 'O', 'R', 'Y'] (by decide) (by decide)).trans (by decide)) (by decide) pe26 rfl nx26 (by decide) (by decide) (by decide)).trans ?_
  refine Eq.trans (step_lift ['B', 'O', 'R', 'Y'] (?_ : loopRun (honest ['B', 'P', 'G', 'O']) 5 (some ['B', 'R', 'G', 'P']) E26 [['B', 'G', 'O', 'R'], ['B', 'O', 'R', 'Y']] = (RunResult.solved ['B', 'P', 'G', 'O'] 4, [['B', 'R', 'G', 'P'], ['B', 'P', 'G', 'O']]))) rfl
  refine (loopRun_step ['B', 'P', 'G', 'O'] 5 4 ['B', 'R', 'G', 'P'] E26 [['B', 'G', 'O', 'R'], ['B', 'O', 'R', 'Y']] 1 2 [['B', 'P', 'G', 'O']] ['B', 'P', 'G', 'O'] [['B', 'G', 'O', 'R'], ['B', 'O', 'R', 'Y'], ['B', 'R', 'G', 'P']] rfl ((calc_eq_fastP ['B', 'P', 'G', 'O'] ['B', 'R', 'G', 'P'] (by decide) (by decide)).trans (by decide)) (by decide) pe48 rfl (findNextGuess_singleton ['B', 'P', 'G', 'O'] [['B', 'G', 'O', 'R'], ['B', 'O', 'R', 'Y'], ['B', 'R', 'G', 'P']]) (by decide) (by decide) (by decide)).trans ?_
  refine Eq.trans (step_lift ['B', 'R', 'G', 'P'] (?_ : loopRun (honest ['B', 'P', 'G', 'O']) 4 (some ['B', 'P', 'G', 'O']) [['B', 'P', 'G', 'O']] [['B', 'G', 'O', 'R'], ['B', 'O', 'R', 'Y'], ['B', 'R', 'G', 'P']] = (RunResult.solved ['B', 'P', 'G', 'O'] 4, [['B', 'P', 'G', 'O']]))) rfl
  exact loopRun_last ['B', 'P', 'G', 'O'] 4 3 [['B', 'P', 'G', 'O']] [['B', 'G', 'O', 'R'], ['B', 'O', 'R', 'Y'], ['B', 'R', 'G', 'P']] rfl rfl (by decide)

lemma rs49 : loopRun (honest ['B', 'P', 'G', 'R']) 7 none S0 [] =
    (RunResult.solved ['B', 'P', 'G', 'R'] 4, [['B', 'G', 'O', 'R'], ['B', 'G', 'R', 'Y'], ['B', 'O', 'Y', 'R'], ['B', 'P', 'G', 'R']]) := by
  refine (loopRun_none' (honest ['B', 'P', 'G', 'R']) 7 S0 []).trans ?_
  refine (loopRun_step ['B', 'P', 'G', 'R'] 7 6 ['B', 'G', 'O', 'R'] S0 [] 1 2 E3 ['B', 'G', 'R', 'Y'] [['B', 'G', 'O', 'R']] rfl ((calc_eq_fastP ['B', 'P', 'G', 'R'] ['B', 'G', 'O', 'R'] (by decide) (by decide)).trans (by decide)) (by decide) pe3 rfl nx3 (by decide) (by decide) (by decide)).trans ?_
  refine Eq.trans (step_lift ['B', 'G', 'O', 'R'] (?_ : loopRun (honest ['B', 'P', 'G', 'R']) 6 (some ['B', 'G', 'R', 'Y']) E3 [['B', 'G', 'O', 'R']] = (RunResult.solved ['B', 'P', 'G', 'R'] 4, [['B', 'G', 'R', 'Y'], ['B', 'O', 'Y', 'R'], ['B', 'P', 'G', 'R']]))) rfl
  refine (loopRun_step ['B', 'P', 'G', 'R'] 6 5 ['B', 'G', 'R', 'Y'] E3 [['B', 'G', 'O', 'R']] 2 1 E19 ['B', 'O', 'Y', 'R'] [['B', 'G', 'O', 'R'], ['B', 'G', 'R', 'Y']] rfl ((calc_eq_fastP ['B', 'P', 'G', 'R'] ['B', 'G', 'R', 'Y'] (by decide) (by decide)).trans (by decide)) (by decide) pe19 rfl nx19 (by decide) (by decide) (by decide)).trans ?_
  refine Eq.trans (step_lift ['B', 'G', 'R', 'Y'] (?_ : loopRun (honest ['B', 'P', 'G', 'R']) 5 (some ['B', 'O', 'Y', 'R']) E19 [['B', 'G', 'O', 'R'], ['B', 'G', 'R', 'Y']] = (RunResult.solved ['B', 'P', 'G', 'R'] 4, [['B', 'O', 'Y', 'R'], ['B', 'P', 'G', 'R']]))) rfl
  refine (loopRun_step ['B', 'P', 'G', 'R'] 5 4 ['B', 'O', 'Y', 'R'] E19 [['B', 'G', 'O', 'R'], ['B', 'G', 'R', 'Y']] 0 2 [['B', 'P', 'G', 'R']] ['B', 'P', 'G', 'R'] [['B', 'G', 'O', 'R'], ['B', 'G', 'R', 'Y'], ['B', 'O', 'Y', 'R']] rfl ((calc_eq_fastP ['B', 'P', 'G', 'R'] ['B', 'O', 'Y', 'R'] (by decide) (by decide)).trans (by decide)) (by decide) pe49 rfl (findNextGuess_singleton ['B', 'P', 'G', 'R'] [['B', 'G', 'O', 'R'], ['B', 'G', 'R', 'Y'], ['B', 'O', 'Y', 'R']]) (by decide) (by decide) (by decide)).trans ?_
  refine Eq.trans (step_lift ['B', 'O', 'Y', 'R'] (?_ : loopRun (honest ['B', 'P', 'G', 'R']) 4 (some ['B', 'P', 'G', 'R']) [['B', 'P', 'G', 'R']] [['B', 'G', 'O', 'R'], ['B', 'G', 'R', 'Y'], ['B', 'O', 'Y', 'R']] = (RunResult.solved ['B', 'P', 'G', 'R'] 4, [['B', 'P', 'G', 'R']]))) rfl
  exact loopRun_last ['B', 'P', 'G', 'R'] 4 3 [['B', 'P', 'G', 'R']] [['B', 'G', 'O', 'R'], ['B', 'G', 'R', 'Y'], ['B', 'O', 'Y', 'R']] rfl rfl (by decide)

lemma rs50 : loopRun (honest ['B', 'P', 'G', 'Y']) 7 none S0 [] =
    (RunResult.solved ['B', 'P', 'G', 'Y'] 4, [['B', 'G', 'O', 'R'], ['B', 'O', 'Y', 'P'], ['B', 'Y', 'P', 'G'], ['B', 'P', 'G', 'Y']]) := by
  refine (loopRun_none' (honest ['B', 'P', 'G', 'Y']) 7 S0 []).trans ?_
  refine (loopRun_step ['B', 'P', 'G', 'Y'] 7 6 ['B', 'G', 'O', 'R'] S0 [] 1 1 E20 ['B', 'O', 'Y', 'P'] [['B', 'G', 'O', 'R']] rfl ((calc_eq_fastP ['B', 'P', 'G', 'Y'] ['B', 'G', 'O', 'R'] (by decide) (by decide)).trans (by decide)) (by decide) pe20 rfl nx20 (by decide) (by decide) (by decide)).trans ?_
  refine Eq.trans (step_lift ['B', 'G', 'O', 'R'] (?_ : loopRun (honest ['B', 'P', 'G', 'Y']) 6 (some ['B', 'O', 'Y', 'P']) E20 [['B', 'G', 'O', 'R']] = (RunResult.solved ['B', 'P', 'G', 'Y'] 4, [['B', 'O', 'Y', 'P'], ['B', 'Y', 'P', 'G'], ['B', 'P', 'G', 'Y']]))) rfl
  refine (loopRun_step ['B', 'P', 'G', 'Y'] 6 5 ['B', 'O', 'Y', 'P'] E20 [['B', 'G', 'O', 'R']] 2 1 E35 ['B', 'Y', 'P', 'G'] [['B', 'G', 'O', 'R'], ['B', 'O', 'Y', 'P']] rfl ((calc_eq_fastP ['B', 'P', 'G', 'Y'] ['B', 'O', 'Y', 'P'] (by decide) (by decide)).trans (by decide)) (by decide) pe35 rfl nx35 (by decide) (by decide) (by decide)).trans ?_
  refine Eq.trans (step_lift ['B', 'O', 'Y', 'P'] (?_ : loopRun (honest ['B', 'P', 'G', 'Y']) 5 (some ['B', 'Y', 'P', 'G']) E35 [['B', 'G', 'O', 'R'], ['B', 'O', 'Y', 'P']] = (RunResult.solved ['B', 'P', 'G', 'Y'] 4, [['B', 'Y', 'P', 'G'], ['B', 'P', 'G', 'Y']]))) rfl
  refine (loopRun_step ['B', 'P', 'G', 'Y'] 5 4 ['B', 'Y', 'P', 'G'] E35 [['B', 'G', 'O', 'R'], ['B', 'O', 'Y', 'P']] 3 1 [['B', 'P', 'G', 'Y']] ['B', 'P', 'G', 'Y'] [['B', 'G', 'O', 'R'], ['B', 'O', 'Y', 'P'], ['B', 'Y', 'P', 'G']] rfl ((calc_eq_fastP ['B', 'P', 'G', 'Y'] ['B', 'Y', 'P', 'G'] (by decide) (by decide)).trans (by decide)) (by decide) pe50 rfl (findNextGuess_singleton ['B', 'P', 'G', 'Y'] [['B', 'G', 'O', 'R'], ['B', 'O', 'Y', 'P'], ['B', 'Y', 'P', 'G']]) (by decide) (by decide) (by decide)).trans ?_
  refine Eq.trans (step_lift ['B', 'Y', 'P', 'G'] (?_ : loopRun (honest ['B', 'P', 'G', 'Y']) 4 (some ['B', 'P', 'G', 'Y']) [['B', 'P', 'G', 'Y']] [['B', 'G', 'O', 'R'], ['B', 'O', 'Y', 'P'], ['B', 'Y', 'P', 'G']] = (RunResult.solved ['B', 'P', 'G', 'Y'] 4, [['B', 'P', 'G', 'Y']]))) rfl
  exact loopRun_last ['B', 'P', 'G', 'Y'] 4 3 [['B', 'P', 'G', 'Y']] [['B', 'G', 'O', 'R'], ['B', 'O', 'Y', 'P'], ['B', 'Y', 'P', 'G']] rfl rfl (by decide)

lemma rs51 : loopRun (honest ['B', 'P', 'O', 'G']) 7 none S0 [] =
    (RunResult.solved ['B', 'P', 'O', 'G'] 4, [['B', 'G', 'O', 'R'], ['B', 'G', 'R', 'Y'], ['B', 'O', 'P', 'R'], ['B', 'P', 'O', 'G']]) := by
  refine (loopRun_none' (honest ['B', 'P', 'O', 'G']) 7 S0 []).trans ?_
  refine (loopRun_step ['B', 'P', 'O', 'G'] 7 6 ['B', 'G', 'O', 'R'] S0 [] 1 2 E3 ['B', 'G', 'R', 'Y'] [['B', 'G', 'O', 'R']] rfl ((calc_eq_fastP ['B', 'P', 'O', 'G'] ['B', 'G', 'O', 'R'] (by decide) (by decide)).trans (by decide)) (by decide) pe3 rfl nx3 (by decide) (by decide) (by decide)).trans ?_
  refine Eq.trans (step_lift ['B', 'G', 'O', 'R'] (?_ : loopRun (honest ['B', 'P', 'O', 'G']) 6 (some ['B', 'G', 'R', 'Y']) E3 [['B', 'G', 'O', 'R']] = (RunResult.solved ['B', 'P', 'O', 'G'] 4, [['B', 'G', 'R', 'Y'], ['B', 'O', 'P', 'R'], ['B', 'P', 'O', 'G']]))) rfl
  refine (loopRun_step ['B', 'P', 'O', 'G'] 6 5 ['B', 'G', 'R', 'Y'] E3 [['B', 'G', 'O', 'R']] 1 1 E22 ['B', 'O', 'P', 'R'] [['B', 'G', 'O', 'R'], ['B', 'G', 'R', 'Y']] rfl ((calc_eq_fastP ['B', 'P', 'O', 'G'] ['B', 'G', 'R', 'Y'] (by decide) (by decide)).trans (by decide)) (by decide) pe22 rfl nx22 (by decide) (by decide) (by decide)).trans ?_
  refine Eq.trans (step_lift ['B', 'G', 'R', 'Y'] (?_ : loopRun (honest ['B', 'P', 'O', 'G']) 5 (some ['B', 'O', 'P', 'R']) E22 [['B', 'G', 'O', 'R'], ['B', 'G', 'R', 'Y']] = (RunResult.solved ['B', 'P', 'O', 'G'] 4, [['B', 'O', 'P', 'R'], ['B', 'P', 'O', 'G']]))) rfl
  refine (loopRun_step ['B', 'P', 'O', 'G'] 5 4 ['B', 'O', 'P', 'R'] E22 [['B', 'G', 'O', 'R'], ['B', 'G', 'R', 'Y']] 2 1 [['B', 'P', 'O', 'G']] ['B', 'P', 'O', 'G'] [['B', 'G', 'O', 'R'], ['B', 'G', 'R', 'Y'], ['B', 'O', 'P', 'R']] rfl ((calc_eq_fastP ['B', 'P', 'O', 'G'] ['B', 'O', 'P', 'R'] (by decide) (by decide)).trans (by decide)) (by decide) pe51 rfl (findNextGuess_singleton ['B', 'P', 'O', 'G'] [['B', 'G', 'O', 'R'], ['B', 'G', 'R', 'Y'], ['B', 'O', 'P', 'R']]) (by decide) (by decide) (by decide)).trans ?_
  refine Eq.trans (step_lift ['B', 'O', 'P', 'R'] (?_ : loopRun (honest ['B', 'P', 'O', 'G']) 4 (some ['B', 'P', 'O', 'G']) [['B', 'P', 'O', 'G']] [['B', 'G', 'O', 'R'], ['B', 'G', 'R', 'Y'], ['B', 'O', 'P', 'R']] = (RunResult.solved ['B', 'P', 'O', 'G'] 4, [['B', 'P', 'O', 'G']]))) rfl
  exact loopRun_last ['B', 'P', 'O', 'G'] 4 3 [['B', 'P', 'O', 'G']] [['B', 'G', 'O', 'R'], ['B', 'G', 'R', 'Y'], ['B', 'O', 'P', 'R']] rfl rfl (by decide)

lemma rs52 : loopRun (honest ['B', 'P', 'O', 'R']) 7 none S0 [] =
    (RunResult.solved ['B', 'P', 'O', 'R'] 4, [['B', 'G', 'O', 'R'], ['B', 'G', 'O', 'Y'], ['B', 'G', 'P', 'R'], ['B', 'P', 'O', 'R']]) := by
  refine (loopRun_none' (honest ['B', 'P', 'O', 'R']) 7 S0 []).trans ?_
  refine (loopRun_step ['B', 'P', 'O', 'R'] 7 6 ['B', 'G', 'O', 'R'] S0 [] 0 3 E0 ['B', 'G', 'O', 'Y'] [['B', 'G', 'O', 'R']] rfl ((calc_eq_fastP ['B', 'P', 'O', 'R'] ['B', 'G', 'O', 'R'] (by decide) (by decide)).trans (by decide)) (by decide) pe0 rfl nx0 (by decide) (by decide) (by decide)).trans ?_
  refine Eq.trans (step_lift ['B', 'G', 'O', 'R'] (?_ : loopRun (honest ['B', 'P', 'O', 'R']) 6 (some ['B', 'G', 'O', 'Y']) E0 [['B', 'G', 'O', 'R']] = (RunResult.solved ['B', 'P', 'O', 'R'] 4, [['B', 'G', 'O', 'Y'], ['B', 'G', 'P', 'R'], ['B', 'P', 'O', 'R']]))) rfl
  refine (loopRun_step ['B', 'P', 'O', 'R'] 6 5 ['B', 'G', 'O', 'Y'] E0 [['B', 'G', 'O', 'R']] 0 2 E10 ['B', 'G', 'P', 'R'] [['B', 'G', 'O', 'R'], ['B', 'G', 'O', 'Y']] rfl ((calc_eq_fastP ['B', 'P', 'O', 'R'] ['B', 'G', 'O', 'Y'] (by decide) (by decide)).trans (by decide)) (by decide) pe10 rfl nx10 (by decide) (by decide) (by decide)).trans ?_
  refine Eq.trans (step_lift ['B', 'G', 'O', 'Y'] (?_ : loopRun (honest ['B', 'P', 'O', 'R']) 5 (some ['B', 'G', 'P', 'R']) E10 [['B', 'G', 'O', 'R'], ['B', 'G', 'O', 'Y']] = (RunResult.solved ['B', 'P', 'O', 'R'] 4, [['B', 'G', 'P', 'R'], ['B', 'P', 'O', 'R']]))) rfl
  refine (loopRun_step ['B', 'P', 'O', 'R'] 5 4 ['B', 'G', 'P', 'R'] E10 [['B', 'G', 'O', 'R'], ['B', 'G', 'O', 'Y']] 1 2 E52 ['B', 'P', 'O', 'R'] [['B', 'G', 'O', 'R'], ['B', 'G', 'O', 'Y'], ['B', 'G', 'P', 'R']] rfl ((calc_eq_fastP ['B', 'P', 'O', 'R'] ['B', 'G', 'P', 'R'] (by decide) (by decide)).trans (by decide)) (by decide) pe52 rfl nx52 (by decide) (by decide) (by decide)).trans ?_
  refine Eq.trans (step_lift ['B', 'G', 'P', 'R'] (?_ : loopRun (honest ['B', 'P', 'O', 'R']) 4 (some ['B', 'P', 'O', 'R']) E52 [['B', 'G', 'O', 'R'], ['B', 'G', 'O', 'Y'], ['B', 'G', 'P', 'R']] = (RunResult.solved ['B', 'P', 'O', 'R'] 4, [['B', 'P', 'O', 'R']]))) rfl
  exact loopRun_last ['B', 'P', 'O', 'R'] 4 3 E52 [['B', 'G', 'O', 'R'], ['B', 'G', 'O', 'Y'], ['B', 'G', 'P', 'R']] rfl rfl (by decide)

lemma rs53 : loopRun (honest ['B', 'P', 'O', 'Y']) 7 none S0 [] =
    (RunResult.solved ['B', 'P', 'O', 'Y'] 4, [['B', 'G', 'O', 'R'], ['B', 'G', 'Y', 'P'], ['B', 'Y', 'P', 'R'], ['B', 'P', 'O', 'Y']]) := by
  refine (loopRun_none' (honest ['B', 'P', 'O', 'Y']) 7 S0 []).trans ?_
  refine (loopRun_step ['B', 'P', 'O', 'Y'] 7 6 ['B', 'G', 'O', 'R'] S0 [] 0 2 E8 ['B', 'G', 'Y', 'P'] [['B', 'G', 'O', 'R']] rfl ((calc_eq_fastP ['B', 'P', 'O', 'Y'] ['B', 'G', 'O', 'R'] (by decide) (by decide)).trans (by decide)) (by decide) pe8 rfl nx8 (by decide) (by decide) (by decide)).trans ?_
  refine Eq.trans (step_lift ['B', 'G', 'O', 'R'] (?_ : loopRun (honest ['B', 'P', 'O', 'Y']) 6 (some ['B', 'G', 'Y', 'P']) E8 [['B', 'G', 'O', 'R']] = (RunResult.solved ['B', 'P', 'O', 'Y'] 4, [['B', 'G', 'Y', 'P'], ['B', 'Y', 'P', 'R'], ['B', 'P', 'O', 'Y']]))) rfl
  refine (loopRun_step ['B', 'P', 'O', 'Y'] 6 5 ['B', 'G', 'Y', 'P'] E8 [['B', 'G', 'O', 'R']] 2 1 E47 ['B', 'Y', 'P', 'R'] [['B', 'G', 'O', 'R'], ['B', 'G', 'Y', 'P']] rfl ((calc_eq_fastP ['B', 'P', 'O', 'Y'] ['B', 'G', 'Y', 'P'] (by decide) (by decide)).trans (by decide)) (by decide) pe47 rfl nx47 (by decide) (by decide) (by decide)).trans ?_
  refine Eq.trans (step_lift ['B', 'G', 'Y', 'P'] (?_ : loopRun (honest ['B', 'P', 'O', 'Y']) 5 (some ['B', 'Y', 'P', 'R']) E47 [['B', 'G', 'O', 'R'], ['B', 'G', 'Y', 'P']] = (RunResult.solved ['B', 'P', 'O', 'Y'] 4, [['B', 'Y', 'P', 'R'], ['B', 'P', 'O', 'Y']]))) rfl
  refine (loopRun_step ['B', 'P', 'O', 'Y'] 5 4 ['B', 'Y', 'P', 'R'] E47 [['B', 'G', 'O', 'R'], ['B', 'G', 'Y', 'P']] 2 1 [['B', 'P', 'O', 'Y']] ['B', 'P', 'O', 'Y'] [['B', 'G', 'O', 'R'], ['B', 'G', 'Y', 'P'], ['B', 'Y', 'P', 'R']] rfl ((calc_eq_fastP ['B', 'P', 'O', 'Y'] ['B', 'Y', 'P', 'R'] (by decide) (by decide)).trans (by decide)) (by decide) pe53 rfl (findNextGuess_singleton ['B', 'P', 'O', 'Y'] [['B', 'G', 'O', 'R'], ['B', 'G', 'Y', 'P'], ['B', 'Y', 'P', 'R']]) (by decide) (by decide) (by decide)).trans ?_
  refine Eq.trans (step_lift ['B', 'Y', 'P', 'R'] (?_ : loopRun (honest ['B', 'P', 'O', 'Y']) 4 (some ['B', 'P', 'O', 'Y']) [['B', 'P', 'O', 'Y']] [['B', 'G', 'O', 'R'], ['B', 'G', 'Y', 'P'], ['B', 'Y', 'P', 'R']] = (RunResult.solved ['B', 'P', 'O', 'Y'] 4, [['B', 'P', 'O', 'Y']]))) rfl
  exact loopRun_last ['B', 'P', 'O', 'Y'] 4 3 [['B', 'P', 'O', 'Y']] [['B', 'G', 'O', 'R'], ['B', 'G', 'Y', 'P'], ['B', 'Y', 'P', 'R']] rfl rfl (by decide)

lemma rs54 : loopRun (honest ['B', 'P', 'R', 'G']) 7 none S0 [] =
    (RunResult.solved ['B', 'P', 'R', 'G'] 4, [['B', 'G', 'O', 'R'], ['B', 'O', 'R', 'Y'], ['B', 'O', 'G', 'P'], ['B', 'P', 'R', 'G']]) := by
  refine (loopRun_none' (honest ['B', 'P', 'R', 'G']) 7 S0 []).trans ?_
  refine (loopRun_step ['B', 'P', 'R', 'G'] 7 6 ['B', 'G', 'O', 'R'] S0 [] 2 1 E13 ['B', 'O', 'R', 'Y'] [['B', 'G', 'O', 'R']] rfl ((calc_eq_fastP ['B', 'P', 'R', 'G'] ['B', 'G', 'O', 'R'] (by decide) (by decide)).trans (by decide)) (by decide) pe13 rfl nx13 (by decide) (by decide) (by decide)).trans ?_
  refine Eq.trans (step_lift ['B', 'G', 'O', 'R'] (?_ : loopRun (honest ['B', 'P', 'R', 'G']) 6 (some ['B', 'O', 'R', 'Y']) E13 [['B', 'G', 'O', 'R']] = (RunResult.solved ['B', 'P', 'R', 'G'] 4, [['B', 'O', 'R', 'Y'], ['B', 'O', 'G', 'P'], ['B', 'P', 'R', 'G']]))) rfl
  refine (loopRun_step ['B', 'P', 'R', 'G'] 6 5 ['B', 'O', 'R', 'Y'] E13 [['B', 'G', 'O', 'R']] 0 2 E15 ['B', 'O', 'G', 'P'] [['B', 'G', 'O', 'R'], ['B', 'O', 'R', 'Y']] rfl ((calc_eq_fastP ['B', 'P', 'R', 'G'] ['B', 'O', 'R', 'Y'] (by decide) (by decide)).trans (by decide)) (by decide) pe15 rfl nx15 (by decide) (by decide) (by decide)).trans ?_
  refine Eq.trans (step_lift ['B', 'O', 'R', 'Y'] (?_ : loopRun (honest ['B', 'P', 'R', 'G']) 5 (some ['B', 'O', 'G', 'P']) E15 [['B', 'G', 'O', 'R'], ['B', 'O', 'R', 'Y']] = (RunResult.solved ['B', 'P', 'R', 'G'] 4, [['B', 'O', 'G', 'P'], ['B', 'P', 'R', 'G']]))) rfl
  refine (loopRun_step ['B', 'P', 'R', 'G'] 5 4 ['B', 'O', 'G', 'P'] E15 [['B', 'G', 'O', 'R'], ['B', 'O', 'R', 'Y']] 2 1 [['B', 'P', 'R', 'G']] ['B', 'P', 'R', 'G'] [['B', 'G', 'O', 'R'], ['B', 'O', 'R', 'Y'], ['B', 'O', 'G', 'P']] rfl ((calc_eq_fastP ['B', 'P', 'R', 'G'] ['B', 'O', 'G', 'P'] (by decide) (by decide)).trans (by decide)) (by decide) pe54 rfl (findNextGuess_singleton ['B', 'P', 'R', 'G'] [['B', 'G', 'O', 'R'], ['B', 'O', 'R', 'Y'], ['B', 'O', 'G', 'P']]) (by decide) (by decide) (by decide)).trans ?_
  refine Eq.trans (step_lift ['B', 'O', 'G', 'P'] (?_ : loopRun (honest ['B', 'P', 'R', 'G']) 4 (some ['B', 'P', 'R', 'G']) [['B', 'P', 'R', 'G']] [['B', 'G', 'O', 'R'], ['B', 'O', 'R', 'Y'], ['B', 'O', 'G', 'P']] = (RunResult.solved ['B', 'P', 'R', 'G'] 4, [['B', 'P', 'R', 'G']]))) rfl
  exact loopRun_last ['B', 'P', 'R', 'G'] 4 3 [['B', 'P', 'R', 'G']] [['B', 'G', 'O', 'R'], ['B', 'O', 'R', 'Y'], ['B', 'O', 'G', 'P']] rfl rfl (by decide)

lemma rs55 : loopRun (honest ['B', 'P', 'R', 'O']) 7 none S0 [] =
    (RunResult.solved ['B', 'P', 'R', 'O'] 4, [['B', 'G', 'O', 'R'], ['B', 'O', 'R', 'Y'], ['B', 'O', 'Y', 'G'], ['B', 'P', 'R', 'O']]) := by
  refine (loopRun_none' (honest ['B', 'P', 'R', 'O']) 7 S0 []).trans ?_
  refine (loopRun_step ['B', 'P', 'R', 'O'] 7 6 ['B', 'G', 'O', 'R'] S0 [] 2 1 E13 ['B', 'O', 'R', 'Y'] [['B', 'G', 'O', 'R']] rfl ((calc_eq_fastP ['B', 'P', 'R', 'O'] ['B', 'G', 'O', 'R'] (by decide) (by decide)).trans (by decide)) (by decide) pe13 rfl nx13 (by decide) (by decide) (by decide)).trans ?_
  refine Eq.trans (step_lift ['B', 'G', 'O', 'R'] (?_ : loopRun (honest ['B', 'P', 'R', 'O']) 6 (some ['B', 'O', 'R', 'Y']) E13 [['B', 'G', 'O', 'R']] = (RunResult.solved ['B', 'P', 'R', 'O'] 4, [['B', 'O', 'R', 'Y'], ['B', 'O', 'Y', 'G'], ['B', 'P', 'R', 'O']]))) rfl
  refine (loopRun_step ['B', 'P', 'R', 'O'] 6 5 ['B', 'O', 'R', 'Y'] E13 [['B', 'G', 'O', 'R']] 1 2 E18 ['B', 'O', 'Y', 'G'] [['B', 'G', 'O', 'R'], ['B', 'O', 'R', 'Y']] rfl ((calc_eq_fastP ['B', 'P', 'R', 'O'] ['B', 'O', 'R', 'Y'] (by decide) (by decide)).trans (by decide)) (by decide) pe18 rfl nx18 (by decide) (by decide) (by decide)).trans ?_
  refine Eq.trans (step_lift ['B', 'O', 'R', 'Y'] (?_ : loopRun (honest ['B', 'P', 'R', 'O']) 5 (some ['B', 'O', 'Y', 'G']) E18 [['B', 'G', 'O', 'R'], ['B', 'O', 'R', 'Y']] = (RunResult.solved ['B', 'P', 'R', 'O'] 4, [['B', 'O', 'Y', 'G'], ['B', 'P', 'R', 'O']]))) rfl
  refine (loopRun_step ['B', 'P', 'R', 'O'] 5 4 ['B', 'O', 'Y', 'G'] E18 [['B', 'G', 'O', 'R'], ['B', 'O', 'R', 'Y']] 1 1 [['B', 'P', 'R', 'O']] ['B', 'P', 'R', 'O'] [['B', 'G', 'O', 'R'], ['B', 'O', 'R', 'Y'], ['B', 'O', 'Y', 'G']] rfl ((calc_eq_fastP ['B', 'P', 'R', 'O'] ['B', 'O', 'Y', 'G'] (by decide) (by decide)).trans (by decide)) (by decide) pe55 rfl (findNextGuess_singleton ['B', 'P', 'R', 'O'] [['B', 'G', 'O', 'R'], ['B', 'O', 'R', 'Y'], ['B', 'O', 'Y', 'G']]) (by decide) (by decide) (by decide)).trans ?_
  refine Eq.trans (step_lift ['B', 'O', 'Y', 'G'] (?_ : loopRun (honest ['B', 'P', 'R', 'O']) 4 (some ['B', 'P', 'R', 'O']) [['B', 'P', 'R', 'O']] [['B', 'G', 'O', 'R'], ['B', 'O', 'R', 'Y'], ['B', 'O', 'Y', 'G']] = (RunResult.solved ['B', 'P', 'R', 'O'] 4, [['B', 'P', 'R', 'O']]))) rfl
  exact loopRun_last ['B', 'P', 'R', 'O'] 4 3 [['B', 'P', 'R', 'O']] [['B', 'G', 'O', 'R'], ['B', 'O', 'R', 'Y'], ['B', 'O', 'Y', 'G']] rfl rfl (by decide)

lemma rs56 : loopRun (honest ['B', 'P', 'R', 'Y']) 7 none S0 [] =
    (RunResult.solved ['B', 'P', 'R', 'Y'] 4, [['B', 'G', 'O', 'R'], ['B', 'O', 'Y', 'P'], ['B', 'Y', 'P', 'G'], ['B', 'P', 'R', 'Y']]) := by
  refine (loopRun_none' (honest ['B', 'P', 'R', 'Y']) 7 S0 []).trans ?_
  refine (loopRun_step ['B', 'P', 'R', 'Y'] 7 6 ['B', 'G', 'O', 'R'] S0 [] 1 1 E20 ['B', 'O', 'Y', 'P'] [['B', 'G', 'O', 'R']] rfl ((calc_eq_fastP ['B', 'P', 'R', 'Y'] ['B', 'G', 'O', 'R'] (by decide) (by decide)).trans (by decide)) (by decide) pe20 rfl nx20 (by decide) (by decide) (by decide)).trans ?_
  refine Eq.trans (step_lift ['B', 'G', 'O', 'R'] (?_ : loopRun (honest ['B', 'P', 'R', 'Y']) 6 (some ['B', 'O', 'Y', 'P']) E20 [['B', 'G', 'O', 'R']] = (RunResult.solved ['B', 'P', 'R', 'Y'] 4, [['B', 'O', 'Y', 'P'], ['B', 'Y', 'P', 'G'], ['B', 'P', 'R', 'Y']]))) rfl
  refine (loopRun_step ['B', 'P', 'R', 'Y'] 6 5 ['B', 'O', 'Y', 'P'] E20 [['B', 'G', 'O', 'R']] 2 1 E35 ['B', 'Y', 'P', 'G'] [['B', 'G', 'O', 'R'], ['B', 'O', 'Y', 'P']] rfl ((calc_eq_fastP ['B', 'P', 'R', 'Y'] ['B', 'O', 'Y', 'P'] (by decide) (by decide)).trans (by decide)) (by decide) pe35 rfl nx35 (by decide) (by decide) (by decide)).trans ?_
  refine Eq.trans (step_lift ['B', 'O', 'Y', 'P'] (?_ : loopRun (honest ['B', 'P', 'R', 'Y']) 5 (some ['B', 'Y', 'P', 'G']) E35 [['B', 'G', 'O', 'R'], ['B', 'O', 'Y', 'P']] = (RunResult.solved ['B', 'P', 'R', 'Y'] 4, [['B', 'Y', 'P', 'G'], ['B', 'P', 'R', 'Y']]))) rfl
  refine (loopRun_step ['B', 'P', 'R', 'Y'] 5 4 ['B', 'Y', 'P', 'G'] E35 [['B', 'G', 'O', 'R'], ['B', 'O', 'Y', 'P']] 2 1 E56 ['B', 'P', 'R', 'Y'] [['B', 'G', 'O', 'R'], ['B', 'O', 'Y', 'P'], ['B', 'Y', 'P', 'G']] rfl ((calc_eq_fastP ['B', 'P', 'R', 'Y'] ['B', 'Y', 'P', 'G'] (by decide) (by decide)).trans (by decide)) (by decide) pe56 rfl nx56 (by decide) (by decide) (by decide)).trans ?_
  refine Eq.trans (step_lift ['B', 'Y', 'P', 'G'] (?_ : loopRun (honest ['B', 'P', 'R', 'Y']) 4 (some ['B', 'P', 'R', 'Y']) E56 [['B', 'G', 'O', 'R'], ['B', 'O', 'Y', 'P'], ['B', 'Y', 'P', 'G']] = (RunResult.solved ['B', 'P', 'R', 'Y'] 4, [['B', 'P', 'R', 'Y']]))) rfl
  exact loopRun_last ['B', 'P', 'R', 'Y'] 4 3 E56 [['B', 'G', 'O', 'R'], ['B', 'O', 'Y', 'P'], ['B', 'Y', 'P', 'G']] rfl rfl (by decide)

lemma rs57 : loopRun (honest ['B', 'P', 'Y', 'G']) 7 none S0 [] =
    (RunResult.solved ['B', 'P', 'Y', 'G'] 4, [['B', 'G', 'O', 'R'], ['B', 'O', 'Y', 'P'], ['B', 'Y', 'G', 'P'], ['B', 'P', 'Y', 'G']]) := by
  refine (loopRun_none' (honest ['B', 'P', 'Y', 'G']) 7 S0 []).trans ?_
  refine (loopRun_step ['B', 'P', 'Y', 'G'] 7 6 ['B', 'G', 'O', 'R'] S0 [] 1 1 E20 ['B', 'O', 'Y', 'P'] [['B', 'G', 'O', 'R']] rfl ((calc_eq_fastP ['B', 'P', 'Y', 'G'] ['B', 'G', 'O', 'R'] (by decide) (by decide)).trans (by decide)) (by decide) pe20 rfl nx20 (by decide) (by decide) (by decide)).trans ?_
  refine Eq.trans (step_lift ['B', 'G', 'O', 'R'] (?_ : loopRun (honest ['B', 'P', 'Y', 'G']) 6 (some ['B', 'O', 'Y', 'P']) E20 [['B', 'G', 'O', 'R']] = (RunResult.solved ['B', 'P', 'Y', 'G'] 4, [['B', 'O', 'Y', 'P'], ['B', 'Y', 'G', 'P'], ['B', 'P', 'Y', 'G']]))) rfl
  refine (loopRun_step ['B', 'P', 'Y', 'G'] 6 5 ['B', 'O', 'Y', 'P'] E20 [['B', 'G', 'O', 'R']] 1 2 E39 ['B', 'Y', 'G', 'P'] [['B', 'G', 'O', 'R'], ['B', 'O', 'Y', 'P']] rfl ((calc_eq_fastP ['B', 'P', 'Y', 'G'] ['B', 'O', 'Y', 'P'] (by decide) (by decide)).trans (by decide)) (by decide) pe39 rfl nx39 (by decide) (by decide) (by decide)).trans ?_
  refine Eq.trans (step_lift ['B', 'O', 'Y', 'P'] (?_ : loopRun (honest ['B', 'P', 'Y', 'G']) 5 (some ['B', 'Y', 'G', 'P']) E39 [['B', 'G', 'O', 'R'], ['B', 'O', 'Y', 'P']] = (RunResult.solved ['B', 'P', 'Y', 'G'] 4, [['B', 'Y', 'G', 'P'], ['B', 'P', 'Y', 'G']]))) rfl
  refine (loopRun_step ['B', 'P', 'Y', 'G'] 5 4 ['B', 'Y', 'G', 'P'] E39 [['B', 'G', 'O', 'R'], ['B', 'O', 'Y', 'P']] 3 1 [['B', 'P', 'Y', 'G']] ['B', 'P', 'Y', 'G'] [['B', 'G', 'O', 'R'], ['B', 'O', 'Y', 'P'], ['B', 'Y', 'G', 'P']] rfl ((calc_eq_fastP ['B', 'P', 'Y', 'G'] ['B', 'Y', 'G', 'P'] (by decide) (by decide)).trans (by decide)) (by decide) pe57 rfl (findNextGuess_singleton ['B', 'P', 'Y', 'G'] [['B', 'G', 'O', 'R'], ['B', 'O', 'Y', 'P'], ['B', 'Y', 'G', 'P']]) (by decide) (by decide) (by decide)).trans ?_
  refine Eq.trans (step_lift ['B', 'Y', 'G', 'P'] (?_ : loopRun (honest ['B', 'P', 'Y', 'G']) 4 (some ['B', 'P', 'Y', 'G']) [['B', 'P', 'Y', 'G']] [['B', 'G', 'O', 'R'], ['B', 'O', 'Y', 'P'], ['B', 'Y', 'G', 'P']] = (RunResult.solved ['B', 'P', 'Y', 'G'] 4, [['B', 'P', 'Y', 'G']]))) rfl
  exact loopRun_last ['B', 'P', 'Y', 'G'] 4 3 [['B', 'P', 'Y', 'G']] [['B', 'G', 'O', 'R'], ['B', 'O', 'Y', 'P'], ['B', 'Y', 'G', 'P']] rfl rfl (by decide)

lemma rs58 : loopRun (honest ['B', 'P', 'Y', 'O']) 7 none S0 [] =
    (RunResult.solved ['B', 'P', 'Y', 'O'] 4, [['B', 'G', 'O', 'R'], ['B', 'O', 'Y', 'P'], ['B', 'O', 'P', 'Y'], ['B', 'P', 'Y', 'O']]) := by
  refine (loopRun_none' (honest ['B', 'P', 'Y', 'O']) 7 S0 []).trans ?_
  refine (loopRun_step ['B', 'P', 'Y', 'O'] 7 6 ['B', 'G', 'O', 'R'] S0 [] 1 1 E20 ['B', 'O', 'Y', 'P'] [['B', 'G', 'O', 'R']] rfl ((calc_eq_fastP ['B', 'P', 'Y', 'O'] ['B', 'G', 'O', 'R'] (by decide) (by decide)).trans (by decide)) (by decide) pe20 rfl nx20 (by decide) (by decide) (by decide)).trans ?_
  refine Eq.trans (step_lift ['B', 'G', 'O', 'R'] (?_ : loopRun (honest ['B', 'P', 'Y', 'O']) 6 (some ['B', 'O', 'Y', 'P']) E20 [['B', 'G', 'O', 'R']] = (RunResult.solved ['B', 'P', 'Y', 'O'] 4, [['B', 'O', 'Y', 'P'], ['B', 'O', 'P', 'Y'], ['B', 'P', 'Y', 'O']]))) rfl
  refine (loopRun_step ['B', 'P', 'Y', 'O'] 6 5 ['B', 'O', 'Y', 'P'] E20 [['B', 'G', 'O', 'R']] 2 2 E23 ['B', 'O', 'P', 'Y'] [['B', 'G', 'O', 'R'], ['B', 'O', 'Y', 'P']] rfl ((calc_eq_fastP ['B', 'P', 'Y', 'O'] ['B', 'O', 'Y', 'P'] (by decide) (by decide)).trans (by decide)) (by decide) pe23 rfl nx23 (by decide) (by decide) (by decide)).trans ?_
  refine Eq.trans (step_lift ['B', 'O', 'Y', 'P'] (?_ : loopRun (honest ['B', 'P', 'Y', 'O']) 5 (some ['B', 'O', 'P', 'Y']) E23 [['B', 'G', 'O', 'R'], ['B', 'O', 'Y', 'P']] = (RunResult.solved ['B', 'P', 'Y', 'O'] 4, [['B', 'O', 'P', 'Y'], ['B', 'P', 'Y', 'O']]))) rfl
  refine (loopRun_step ['B', 'P', 'Y', 'O'] 5 4 ['B', 'O', 'P', 'Y'] E23 [['B', 'G', 'O', 'R'], ['B', 'O', 'Y', 'P']] 3 1 [['B', 'P', 'Y', 'O']] ['B', 'P', 'Y', 'O'] [['B', 'G', 'O', 'R'], ['B', 'O', 'Y', 'P'], ['B', 'O', 'P', 'Y']] rfl ((calc_eq_fastP ['B', 'P', 'Y', 'O'] ['B', 'O', 'P', 'Y'] (by decide) (by decide)).trans (by decide)) (by decide) pe58 rfl (findNextGuess_singleton ['B', 'P', 'Y', 'O'] [['B', 'G', 'O', 'R'], ['B', 'O', 'Y', 'P'], ['B', 'O', 'P', 'Y']]) (by decide) (by decide) (by decide)).trans ?_
  refine Eq.trans (step_lift ['B', 'O', 'P', 'Y'] (?_ : loopRun (honest ['B', 'P', 'Y', 'O']) 4 (some ['B', 'P', 'Y', 'O']) [['B', 'P', 'Y', 'O']] [['B', 'G', 'O', 'R'], ['B', 'O', 'Y', 'P'], ['B', 'O', 'P', 'Y']] = (RunResult.solved ['B', 'P', 'Y', 'O'] 4, [['B', 'P', 'Y', 'O']]))) rfl
  exact loopRun_last ['B', 'P', 'Y', 'O'] 4 3 [['B', 'P', 'Y', 'O']] [['B', 'G', 'O', 'R'], ['B', 'O', 'Y', 'P'], ['B', 'O', 'P', 'Y']] rfl rfl (by decide)

lemma rs59 : loopRun (honest ['B', 'P', 'Y', 'R']) 7 none S0 [] =
    (RunResult.solved ['B', 'P', 'Y', 'R'] 4, [['B', 'G', 'O', 'R'], ['B', 'G', 'Y', 'P'], ['B', 'Y', 'O', 'P'], ['B', 'P', 'Y', 'R']]) := by
  refine (loopRun_none' (honest ['B', 'P', 'Y', 'R']) 7 S0 []).trans ?_
  refine (loopRun_step ['B', 'P', 'Y', 'R'] 7 6 ['B', 'G', 'O', 'R'] S0 [] 0 2 E8 ['B', 'G', 'Y', 'P'] [['B', 'G', 'O', 'R']] rfl ((calc_eq_fastP ['B', 'P', 'Y', 'R'] ['B', 'G', 'O', 'R'] (by decide) (by decide)).trans (by decide)) (by decide) pe8 rfl nx8 (by decide) (by decide) (by decide)).trans ?_
  refine Eq.trans (step_lift ['B', 'G', 'O', 'R'] (?_ : loopRun (honest ['B', 'P', 'Y', 'R']) 6 (some ['B', 'G', 'Y', 'P']) E8 [['B', 'G', 'O', 'R']] = (RunResult.solved ['B', 'P', 'Y', 'R'] 4, [['B', 'G', 'Y', 'P'], ['B', 'Y', 'O', 'P'], ['B', 'P', 'Y', 'R']]))) rfl
  refine (loopRun_step ['B', 'P', 'Y', 'R'] 6 5 ['B', 'G', 'Y', 'P'] E8 [['B', 'G', 'O', 'R']] 1 2 E42 ['B', 'Y', 'O', 'P'] [['B', 'G', 'O', 'R'], ['B', 'G', 'Y', 'P']] rfl ((calc_eq_fastP ['B', 'P', 'Y', 'R'] ['B', 'G', 'Y', 'P'] (by decide) (by decide)).trans (by decide)) (by decide) pe42 rfl nx42 (by decide) (by decide) (by decide)).trans ?_
  refine Eq.trans (step_lift ['B', 'G', 'Y', 'P'] (?_ : loopRun (honest ['B', 'P', 'Y', 'R']) 5 (some ['B', 'Y', 'O', 'P']) E42 [['B', 'G', 'O', 'R'], ['B', 'G', 'Y', 'P']] = (RunResult.solved ['B', 'P', 'Y', 'R'] 4, [['B', 'Y', 'O', 'P'], ['B', 'P', 'Y', 'R']]))) rfl
  refine (loopRun_step ['B', 'P', 'Y', 'R'] 5 4 ['B', 'Y', 'O', 'P'] E42 [['B', 'G', 'O', 'R'], ['B', 'G', 'Y', 'P']] 2 1 [['B', 'P', 'Y', 'R']] ['B', 'P', 'Y', 'R'] [['B', 'G', 'O', 'R'], ['B', 'G', 'Y', 'P'], ['B', 'Y', 'O', 'P']] rfl ((calc_eq_fastP ['B', 'P', 'Y', 'R'] ['B', 'Y', 'O', 'P'] (by decide) (by decide)).trans (by decide)) (by decide) pe59 rfl (findNextGuess_singleton ['B', 'P', 'Y', 'R'] [['B', 'G', 'O', 'R'], ['B', 'G', 'Y', 'P'], ['B', 'Y', 'O', 'P']]) (by decide) (by decide) (by decide)).trans ?_
  refine Eq.trans (step_lift ['B', 'Y', 'O', 'P'] (?_ : loopRun (honest ['B', 'P', 'Y', 'R']) 4 (some ['B', 'P', 'Y', 'R']) [['B', 'P', 'Y', 'R']] [['B', 'G', 'O', 'R'], ['B', 'G', 'Y', 'P'], ['B', 'Y', 'O', 'P']] = (RunResult.solved ['B', 'P', 'Y', 'R'] 4, [['B', 'P', 'Y', 'R']]))) rfl
  exact loopRun_last ['B', 'P', 'Y', 'R'] 4 3 [['B', 'P', 'Y', 'R']] [['B', 'G', 'O', 'R'], ['B', 'G', 'Y', 'P'], ['B', 'Y', 'O', 'P']] rfl rfl (by decide)

lemma rs60 : loopRun (honest ['G', 'B', 'O', 'R']) 7 none S0 [] =
    (RunResult.solved ['G', 'B', 'O', 'R'] 3, [['B', 'G', 'O', 'R'], ['B', 'G', 'R', 'O'], ['G', 'B', 'O', 'R']]) := by
  refine (loopRun_none' (honest ['G', 'B', 'O', 'R']) 7 S0 []).trans ?_
  refine (loopRun_step ['G', 'B', 'O', 'R'] 7 6 ['B', 'G', 'O', 'R'] S0 [] 2 2 E2 ['B', 'G', 'R', 'O'] [['B', 'G', 'O', 'R']] rfl ((calc_eq_fastP ['G', 'B', 'O', 'R'] ['B', 'G', 'O', 'R'] (by decide) (by decide)).trans (by decide)) (by decide) pe2 rfl nx2 (by decide) (by decide) (by decide)).trans ?_
  refine Eq.trans (step_lift ['B', 'G', 'O', 'R'] (?_ : loopRun (honest ['G', 'B', 'O', 'R']) 6 (some ['B', 'G', 'R', 'O']) E2 [['B', 'G', 'O', 'R']] = (RunResult.solved ['G', 'B', 'O', 'R'] 3, [['B', 'G', 'R', 'O'], ['G', 'B', 'O', 'R']]))) rfl
  refine (loopRun_step ['G', 'B', 'O', 'R'] 6 5 ['B', 'G', 'R', 'O'] E2 [['B', 'G', 'O', 'R']] 4 0 [['G', 'B', 'O', 'R']] ['G', 'B', 'O', 'R'] [['B', 'G', 'O', 'R'], ['B', 'G', 'R', 'O']] rfl ((calc_eq_fastP ['G', 'B', 'O', 'R'] ['B', 'G', 'R', 'O'] (by decide) (by decide)).trans (by decide)) (by decide) pe60 rfl (findNextGuess_singleton ['G', 'B', 'O', 'R'] [['B', 'G', 'O', 'R'], ['B', 'G', 'R', 'O']]) (by decide) (by decide) (by decide)).trans ?_
  refine Eq.trans (step_lift ['B', 'G', 'R', 'O'] (?_ : loopRun (honest ['G', 'B', 'O', 'R']) 5 (some ['G', 'B', 'O', 'R']) [['G', 'B', 'O', 'R']] [['B', 'G', 'O', 'R'], ['B', 'G', 'R', 'O']] = (RunResult.solved ['G', 'B', 'O', 'R'] 3, [['G', 'B', 'O', 'R']]))) rfl
  exact loopRun_last ['G', 'B', 'O', 'R'] 5 4 [['G', 'B', 'O', 'R']] [['B', 'G', 'O', 'R'], ['B', 'G', 'R', 'O']] rfl rfl (by decide)

lemma rs61 : loopRun (honest ['G', 'B', 'O', 'Y']) 7 none S0 [] =
    (RunResult.solved ['G', 'B', 'O', 'Y'] 4, [['B', 'G', 'O', 'R'], ['B', 'O', 'R', 'Y'], ['G', 'R', 'O', 'Y'], ['G', 'B', 'O', 'Y']]) := by
  refine (loopRun_none' (honest ['G', 'B', 'O', 'Y']) 7 S0 []).trans ?_
  refine (loopRun_step ['G', 'B', 'O', 'Y'] 7 6 ['B', 'G', 'O', 'R'] S0 [] 2 1 E13 ['B', 'O', 'R', 'Y'] [['B', 'G', 'O', 'R']] rfl ((calc_eq_fastP ['G', 'B', 'O', 'Y'] ['B', 'G', 'O', 'R'] (by decide) (by decide)).trans (by decide)) (by decide) pe13 rfl nx13 (by decide) (by decide) (by decide)).trans ?_
  refine Eq.trans (step_lift ['B', 'G', 'O', 'R'] (?_ : loopRun (honest ['G', 'B', 'O', 'Y']) 6 (some ['B', 'O', 'R', 'Y']) E13 [['B', 'G', 'O', 'R']] = (RunResult.solved ['G', 'B', 'O', 'Y'] 4, [['B', 'O', 'R', 'Y'], ['G', 'R', 'O', 'Y'], ['G', 'B', 'O', 'Y']]))) rfl
  refine (loopRun_step ['G', 'B', 'O', 'Y'] 6 5 ['B', 'O', 'R', 'Y'] E13 [['B', 'G', 'O', 'R']] 2 1 E29 ['G', 'R', 'O', 'Y'] [['B', 'G', 'O', 'R'], ['B', 'O', 'R', 'Y']] rfl ((calc_eq_fastP ['G', 'B', 'O', 'Y'] ['B', 'O', 'R', 'Y'] (by decide) (by decide)).trans (by decide)) (by decide) pe29 rfl nx29 (by decide) (by decide) (by decide)).trans ?_
  refine Eq.trans (step_lift ['B', 'O', 'R', 'Y'] (?_ : loopRun (honest ['G', 'B', 'O', 'Y']) 5 (some ['G', 'R', 'O', 'Y']) E29 [['B', 'G', 'O', 'R'], ['B', 'O', 'R', 'Y']] = (RunResult.solved ['G', 'B', 'O', 'Y'] 4, [['G', 'R', 'O', 'Y'], ['G', 'B', 'O', 'Y']]))) rfl
  refine (loopRun_step ['G', 'B', 'O', 'Y'] 5 4 ['G', 'R', 'O', 'Y'] E29 [['B', 'G', 'O', 'R'], ['B', 'O', 'R', 'Y']] 0 3 [['G', 'B', 'O', 'Y']] ['G', 'B', 'O', 'Y'] [['B', 'G', 'O', 'R'], ['B', 'O', 'R', 'Y'], ['G', 'R', 'O', 'Y']] rfl ((calc_eq_fastP ['G', 'B', 'O', 'Y'] ['G', 'R', 'O', 'Y'] (by decide) (by decide)).trans (by decide)) (by decide) pe61 rfl (findNextGuess_singleton ['G', 'B', 'O', 'Y'] [['B', 'G', 'O', 'R'], ['B', 'O', 'R', 'Y'], ['G', 'R', 'O', 'Y']]) (by decide) (by decide) (by decide)).trans ?_
  refine Eq.trans (step_lift ['G', 'R', 'O', 'Y'] (?_ : loopRun (honest ['G', 'B', 'O', 'Y']) 4 (some ['G', 'B', 'O', 'Y']) [['G', 'B', 'O', 'Y']] [['B', 'G', 'O', 'R'], ['B', 'O', 'R', 'Y'], ['G', 'R', 'O', 'Y']] = (RunResult.solved ['G', 'B', 'O', 'Y'] 4, [['G', 'B', 'O', 'Y']]))) rfl
  exact loopRun_last ['G', 'B', 'O', 'Y'] 4 3 [['G', 'B', 'O', 'Y']] [['B', 'G', 'O', 'R'], ['B', 'O', 'R', 'Y'], ['G', 'R', 'O', 'Y']] rfl rfl (by decide)

lemma rs62 : loopRun (honest ['G', 'B', 'O', 'P']) 7 none S0 [] =
    (RunResult.solved ['G', 'B', 'O', 'P'] 4, [['B', 'G', 'O', 'R'], ['B', 'O', 'R', 'Y'], ['G', 'P', 'O', 'B'], ['G', 'B', 'O', 'P']]) := by
  refine (loopRun_none' (honest ['G', 'B', 'O', 'P']) 7 S0 []).trans ?_
  refine (loopRun_step ['G', 'B', 'O', 'P'] 7 6 ['B', 'G', 'O', 'R'] S0 [] 2 1 E13 ['B', 'O', 'R', 'Y'] [['B', 'G', 'O', 'R']] rfl ((calc_eq_fastP ['G', 'B', 'O', 'P'] ['B', 'G', 'O', 'R'] (by decide) (by decide)).trans (by decide)) (by decide) pe13 rfl nx13 (by decide) (by decide) (by decide)).trans ?_
  refine Eq.trans (step_lift ['B', 'G', 'O', 'R'] (?_ : loopRun (honest ['G', 'B', 'O', 'P']) 6 (some ['B', 'O', 'R', 'Y']) E13 [['B', 'G', 'O', 'R']] = (RunResult.solved ['G', 'B', 'O', 'P'] 4, [['B', 'O', 'R', 'Y'], ['G', 'P', 'O', 'B'], ['G', 'B', 'O', 'P']]))) rfl
  refine (loopRun_step ['G', 'B', 'O', 'P'] 6 5 ['B', 'O', 'R', 'Y'] E13 [['B', 'G', 'O', 'R']] 2 0 E62 ['G', 'P', 'O', 'B'] [['B', 'G', 'O', 'R'], ['B', 'O', 'R', 'Y']] rfl ((calc_eq_fastP ['G', 'B', 'O', 'P'] ['B', 'O', 'R', 'Y'] (by decide) (by decide)).trans (by decide)) (by decide) pe62 rfl nx62 (by decide) (by decide) (by decide)).trans ?_
  refine Eq.trans (step_lift ['B', 'O', 'R', 'Y'] (?_ : loopRun (honest ['G', 'B', 'O', 'P']) 5 (some ['G', 'P', 'O', 'B']) E62 [['B', 'G', 'O', 'R'], ['B', 'O', 'R', 'Y']] = (RunResult.solved ['G', 'B', 'O', 'P'] 4, [['G', 'P', 'O', 'B'], ['G', 'B', 'O', 'P']]))) rfl
  refine (loopRun_step ['G', 'B', 'O', 'P'] 5 4 ['G', 'P', 'O', 'B'] E62 [['B', 'G', 'O', 'R'], ['B', 'O', 'R', 'Y']] 2 2 [['G', 'B', 'O', 'P']] ['G', 'B', 'O', 'P'] [['B', 'G', 'O', 'R'], ['B', 'O', 'R', 'Y'], ['G', 'P', 'O', 'B']] rfl ((calc_eq_fastP ['G', 'B', 'O', 'P'] ['G', 'P', 'O', 'B'] (by decide) (by decide)).trans (by decide)) (by decide) pe63 rfl (findNextGuess_singleton ['G', 'B', 'O', 'P'] [['B', 'G', 'O', 'R'], ['B', 'O', 'R', 'Y'], ['G', 'P', 'O', 'B']]) (by decide) (by decide) (by decide)).trans ?_
  refine Eq.trans (step_lift ['G', 'P', 'O', 'B'] (?_ : loopRun (honest ['G', 'B', 'O', 'P']) 4 (some ['G', 'B', 'O', 'P']) [['G', 'B', 'O', 'P']] [['B', 'G', 'O', 'R'], ['B', 'O', 'R', 'Y'], ['G', 'P', 'O', 'B']] = (RunResult.solved ['G', 'B', 'O', 'P'] 4, [['G', 'B', 'O', 'P']]))) rfl
  exact loopRun_last ['G', 'B', 'O', 'P'] 4 3 [['G', 'B', 'O', 'P']] [['B', 'G', 'O', 'R'], ['B', 'O', 'R', 'Y'], ['G', 'P', 'O', 'B']] rfl rfl (by decide)

lemma rs63 : loopRun (honest ['G', 'B', 'R', 'O']) 7 none S0 [] =
    (RunResult.solved ['G', 'B', 'R', 'O'] 2, [['B', 'G', 'O', 'R'], ['G', 'B', 'R', 'O']]) := by
  refine (loopRun_none' (honest ['G', 'B', 'R', 'O']) 7 S0 []).trans ?_
  refine (loopRun_step ['G', 'B', 'R', 'O'] 7 6 ['B', 'G', 'O', 'R'] S0 [] 4 0 E64 ['G', 'B', 'R', 'O'] [['B', 'G', 'O', 'R']] rfl ((calc_eq_fastP ['G', 'B', 'R', 'O'] ['B', 'G', 'O', 'R'] (by decide) (by decide)).trans (by decide)) (by decide) pe64 rfl nx64 (by decide) (by decide) (by decide)).trans ?_
  refine Eq.trans (step_lift ['B', 'G', 'O', 'R'] (?_ : loopRun (honest ['G', 'B', 'R', 'O']) 6 (some ['G', 'B', 'R', 'O']) E64 [['B', 'G', 'O', 'R']] = (RunResult.solved ['G', 'B', 'R', 'O'] 2, [['G', 'B', 'R', 'O']]))) rfl
  exact loopRun_last ['G', 'B', 'R', 'O'] 6 5 E64 [['B', 'G', 'O', 'R']] rfl rfl (by decide)

lemma rs64 : loopRun (honest ['G', 'B', 'R', 'Y']) 7 none S0 [] =
    (RunResult.solved ['G', 'B', 'R', 'Y'] 3, [['B', 'G', 'O', 'R'], ['G', 'O', 'R', 'Y'], ['G', 'B', 'R', 'Y']]) := by
  refine (loopRun_none' (honest ['G', 'B', 'R', 'Y']) 7 S0 []).trans ?_
  refine (loopRun_step ['G', 'B', 'R', 'Y'] 7 6 ['B', 'G', 'O', 'R'] S0 [] 3 0 E65 ['G', 'O', 'R', 'Y'] [['B', 'G', 'O', 'R']] rfl ((calc_eq_fastP ['G', 'B', 'R', 'Y'] ['B', 'G', 'O', 'R'] (by decide) (by decide)).trans (by decide)) (by decide) pe65 rfl nx65 (by decide) (by decide) (by decide)).trans ?_
  refine Eq.trans (step_lift ['B', 'G', 'O', 'R'] (?_ : loopRun (honest ['G', 'B', 'R', 'Y']) 6 (some ['G', 'O', 'R', 'Y']) E65 [['B', 'G', 'O', 'R']] = (RunResult.solved ['G', 'B', 'R', 'Y'] 3, [['G', 'O', 'R', 'Y'], ['G', 'B', 'R', 'Y']]))) rfl
  refine (loopRun_step ['G', 'B', 'R', 'Y'] 6 5 ['G', 'O', 'R', 'Y'] E65 [['B', 'G', 'O', 'R']] 0 3 E66 ['G', 'B', 'R', 'Y'] [['B', 'G', 'O', 'R'], ['G', 'O', 'R', 'Y']] rfl ((calc_eq_fastP ['G', 'B', 'R', 'Y'] ['G', 'O', 'R', 'Y'] (by decide) (by decide)).trans (by decide)) (by decide) pe66 rfl nx66 (by decide) (by decide) (by decide)).trans ?_
  refine Eq.trans (step_lift ['G', 'O', 'R', 'Y'] (?_ : loopRun (honest ['G', 'B', 'R', 'Y']) 5 (some ['G', 'B', 'R', 'Y']) E66 [['B', 'G', 'O', 'R'], ['G', 'O', 'R', 'Y']] = (RunResult.solved ['G', 'B', 'R', 'Y'] 3, [['G', 'B', 'R', 'Y']]))) rfl
  exact loopRun_last ['G', 'B', 'R', 'Y'] 5 4 E66 [['B', 'G', 'O', 'R'], ['G', 'O', 'R', 'Y']] rfl rfl (by decide)

lemma rs65 : loopRun (honest ['G', 'B', 'R', 'P']) 7 none S0 [] =
    (RunResult.solved ['G', 'B', 'R', 'P'] 3, [['B', 'G', 'O', 'R'], ['G', 'O', 'R', 'Y'], ['G', 'B', 'R', 'P']]) := by
  refine (loopRun_none' (honest ['G', 'B', 'R', 'P']) 7 S0 []).trans ?_
  refine (loopRun_step ['G', 'B', 'R', 'P'] 7 6 ['B', 'G', 'O', 'R'] S0 [] 3 0 E65 ['G', 'O', 'R', 'Y'] [['B', 'G', 'O', 'R']] rfl ((calc_eq_fastP ['G', 'B', 'R', 'P'] ['B', 'G', 'O', 'R'] (by decide) (by decide)).trans (by decide)) (by decide) pe65 rfl nx65 (by decide) (by decide) (by decide)).trans ?_
  refine Eq.trans (step_lift ['B', 'G', 'O', 'R'] (?_ : loopRun (honest ['G', 'B', 'R', 'P']) 6 (some ['G', 'O', 'R', 'Y']) E65 [['B', 'G', 'O', 'R']] = (RunResult.solved ['G', 'B', 'R', 'P'] 3, [['G', 'O', 'R', 'Y'], ['G', 'B', 'R', 'P']]))) rfl
  refine (loopRun_step ['G', 'B', 'R', 'P'] 6 5 ['G', 'O', 'R', 'Y'] E65 [['B', 'G', 'O', 'R']] 0 2 E67 ['G', 'B', 'R', 'P'] [['B', 'G', 'O', 'R'], ['G', 'O', 'R', 'Y']] rfl ((calc_eq_fastP ['G', 'B', 'R', 'P'] ['G', 'O', 'R', 'Y'] (by decide) (by decide)).trans (by decide)) (by decide) pe67 rfl nx67 (by decide) (by decide) (by decide)).trans ?_
  refine Eq.trans (step_lift ['G', 'O', 'R', 'Y'] (?_ : loopRun (honest ['G', 'B', 'R', 'P']) 5 (some ['G', 'B', 'R', 'P']) E67 [['B', 'G', 'O', 'R'], ['G', 'O', 'R', 'Y']] = (RunResult.solved ['G', 'B', 'R', 'P'] 3, [['G', 'B', 'R', 'P']]))) rfl
  exact loopRun_last ['G', 'B', 'R', 'P'] 5 4 E67 [['B', 'G', 'O', 'R'], ['G', 'O', 'R', 'Y']] rfl rfl (by decide)

lemma rs66 : loopRun (honest ['G', 'B', 'Y', 'O']) 7 none S0 [] =
    (RunResult.solved ['G', 'B', 'Y', 'O'] 3, [['B', 'G', 'O', 'R'], ['G', 'O', 'R', 'Y'], ['G', 'B', 'Y', 'O']]) := by
  refine (loopRun_none' (honest ['G', 'B', 'Y', 'O']) 7 S0 []).trans ?_
  refine (loopRun_step ['G', 'B', 'Y', 'O'] 7 6 ['B', 'G', 'O', 'R'] S0 [] 3 0 E65 ['G', 'O', 'R', 'Y'] [['B', 'G', 'O', 'R']] rfl ((calc_eq_fastP ['G', 'B', 'Y', 'O'] ['B', 'G', 'O', 'R'] (by decide) (by decide)).trans (by decide)) (by decide) pe65 rfl nx65 (by decide) (by decide) (by decide)).trans ?_
  refine Eq.trans (step_lift ['B', 'G', 'O', 'R'] (?_ : loopRun (honest ['G', 'B', 'Y', 'O']) 6 (some ['G', 'O', 'R', 'Y']) E65 [['B', 'G', 'O', 'R']] = (RunResult.solved ['G', 'B', 'Y', 'O'] 3, [['G', 'O', 'R', 'Y'], ['G', 'B', 'Y', 'O']]))) rfl
  refine (loopRun_step ['G', 'B', 'Y', 'O'] 6 5 ['G', 'O', 'R', 'Y'] E65 [['B', 'G', 'O', 'R']] 2 1 E68 ['G', 'B', 'Y', 'O'] [['B', 'G', 'O', 'R'], ['G', 'O', 'R', 'Y']] rfl ((calc_eq_fastP ['G', 'B', 'Y', 'O'] ['G', 'O', 'R', 'Y'] (by decide) (by decide)).trans (by decide)) (by decide) pe68 rfl nx68 (by decide) (by decide) (by decide)).trans ?_
  refine Eq.trans (step_lift ['G', 'O', 'R', 'Y'] (?_ : loopRun (honest ['G', 'B', 'Y', 'O']) 5 (some ['G', 'B', 'Y', 'O']) E68 [['B', 'G', 'O', 'R'], ['G', 'O', 'R', 'Y']] = (RunResult.solved ['G', 'B', 'Y', 'O'] 3, [['G', 'B', 'Y', 'O']]))) rfl
  exact loopRun_last ['G', 'B', 'Y', 'O'] 5 4 E68 [['B', 'G', 'O', 'R'], ['G', 'O', 'R', 'Y']] rfl rfl (by decide)

lemma rs67 : loopRun (honest ['G', 'B', 'Y', 'R']) 7 none S0 [] =
    (RunResult.solved ['G', 'B', 'Y', 'R'] 5, [['B', 'G', 'O', 'R'], ['B', 'O', 'R', 'Y'], ['O', 'Y', 'G', 'R'], ['G', 'Y', 'O', 'B'], ['G', 'B', 'Y', 'R']]) := by
  refine (loopRun_none' (honest ['G', 'B', 'Y', 'R']) 7 S0 []).trans ?_
  refine (loopRun_step ['G', 'B', 'Y', 'R'] 7 6 ['B', 'G', 'O', 'R'] S0 [] 2 1 E13 ['B', 'O', 'R', 'Y'] [['B', 'G', 'O', 'R']] rfl ((calc_eq_fastP ['G', 'B', 'Y', 'R'] ['B', 'G', 'O', 'R'] (by decide) (by decide)).trans (by decide)) (by decide) pe13 rfl nx13 (by decide) (by decide) (by decide)).trans ?_
  refine Eq.trans (step_lift ['B', 'G', 'O', 'R'] (?_ : loopRun (honest ['G', 'B', 'Y', 'R']) 6 (some ['B', 'O', 'R', 'Y']) E13 [['B', 'G', 'O', 'R']] = (RunResult.solved ['G', 'B', 'Y', 'R'] 5, [['B', 'O', 'R', 'Y'], ['O', 'Y', 'G', 'R'], ['G', 'Y', 'O', 'B'], ['G', 'B', 'Y', 'R']]))) rfl
  refine (loopRun_step ['G', 'B', 'Y', 'R'] 6 5 ['B', 'O', 'R', 'Y'] E13 [['B', 'G', 'O', 'R']] 3 0 E69 ['O', 'Y', 'G', 'R'] [['B', 'G', 'O', 'R'], ['B', 'O', 'R', 'Y']] rfl ((calc_eq_fastP ['G', 'B', 'Y', 'R'] ['B', 'O', 'R', 'Y'] (by decide) (by decide)).trans (by decide)) (by decide) pe69 rfl nx69 (by decide) (by decide) (by decide)).trans ?_
  refine Eq.trans (step_lift ['B', 'O', 'R', 'Y'] (?_ : loopRun (honest ['G', 'B', 'Y', 'R']) 5 (some ['O', 'Y', 'G', 'R']) E69 [['B', 'G', 'O', 'R'], ['B', 'O', 'R', 'Y']] = (RunResult.solved ['G', 'B', 'Y', 'R'] 5, [['O', 'Y', 'G', 'R'], ['G', 'Y', 'O', 'B'], ['G', 'B', 'Y', 'R']]))) rfl
  refine (loopRun_step ['G', 'B', 'Y', 'R'] 5 4 ['O', 'Y', 'G', 'R'] E69 [['B', 'G', 'O', 'R'], ['B', 'O', 'R', 'Y']] 2 1 E70 ['G', 'Y', 'O', 'B'] [['B', 'G', 'O', 'R'], ['B', 'O', 'R', 'Y'], ['O', 'Y', 'G', 'R']] rfl ((calc_eq_fastP ['G', 'B', 'Y', 'R'] ['O', 'Y', 'G', 'R'] (by decide) (by decide)).trans (by decide)) (by decide) pe70 rfl nx70 (by decide) (by decide) (by decide)).trans ?_
  refine Eq.trans (step_lift ['O', 'Y', 'G', 'R'] (?_ : loopRun (honest ['G', 'B', 'Y', 'R']) 4 (some ['G', 'Y', 'O', 'B']) E70 [['B', 'G', 'O', 'R'], ['B', 'O', 'R', 'Y'], ['O', 'Y', 'G', 'R']] = (RunResult.solved ['G', 'B', 'Y', 'R'] 5, [['G', 'Y', 'O', 'B'], ['G', 'B', 'Y', 'R']]))) rfl
  refine (loopRun_step ['G', 'B', 'Y', 'R'] 4 3 ['G', 'Y', 'O', 'B'] E70 [['B', 'G', 'O', 'R'], ['B', 'O', 'R', 'Y'], ['O', 'Y', 'G', 'R']] 2 1 [['G', 'B', 'Y', 'R']] ['G', 'B', 'Y', 'R'] [['B', 'G', 'O', 'R'], ['B', 'O', 'R', 'Y'], ['O', 'Y', 'G', 'R'], ['G', 'Y', 'O', 'B']] rfl ((calc_eq_fastP ['G', 'B', 'Y', 'R'] ['G', 'Y', 'O', 'B'] (by decide) (by decide)).trans (by decide)) (by decide) pe71 rfl (findNextGuess_singleton ['G', 'B', 'Y', 'R'] [['B', 'G', 'O', 'R'], ['B', 'O', 'R', 'Y'], ['O', 'Y', 'G', 'R'], ['G', 'Y', 'O', 'B']]) (by decide) (by decide) (by decide)).trans ?_
  refine Eq.trans (step_lift ['G', 'Y', 'O', 'B'] (?_ : loopRun (honest ['G', 'B', 'Y', 'R']) 3 (some ['G', 'B', 'Y', 'R']) [['G', 'B', 'Y', 'R']] [['B', 'G', 'O', 'R'], ['B', 'O', 'R', 'Y'], ['O', 'Y', 'G', 'R'], ['G', 'Y', 'O', 'B']] = (RunResult.solved ['G', 'B', 'Y', 'R'] 5, [['G', 'B', 'Y', 'R']]))) rfl
  exact loopRun_last ['G', 'B', 'Y', 'R'] 3 2 [['G', 'B', 'Y', 'R']] [['B', 'G', 'O', 'R'], ['B', 'O', 'R', 'Y'], ['O', 'Y', 'G', 'R'], ['G', 'Y', 'O', 'B']] rfl rfl (by decide)

lemma rs68 : loopRun (honest ['G', 'B', 'Y', 'P']) 7 none S0 [] =
    (RunResult.solved ['G', 'B', 'Y', 'P'] 4, [['B', 'G', 'O', 'R'], ['G', 'Y', 'R', 'P'], ['G', 'O', 'Y', 'P'], ['G', 'B', 'Y', 'P']]) := by
  refine (loopRun_none' (honest ['G', 'B', 'Y', 'P']) 7 S0 []).trans ?_
  refine (loopRun_step ['G', 'B', 'Y', 'P'] 7 6 ['B', 'G', 'O', 'R'] S0 [] 2 0 E72 ['G', 'Y', 'R', 'P'] [['B', 'G', 'O', 'R']] rfl ((calc_eq_fastP ['G', 'B', 'Y', 'P'] ['B', 'G', 'O', 'R'] (by decide) (by decide)).trans (by decide)) (by decide) pe72 rfl nx72 (by decide) (by decide) (by decide)).trans ?_
  refine Eq.trans (step_lift ['B', 'G', 'O', 'R'] (?_ : loopRun (honest ['G', 'B', 'Y', 'P']) 6 (some ['G', 'Y', 'R', 'P']) E72 [['B', 'G', 'O', 'R']] = (RunResult.solved ['G', 'B', 'Y', 'P'] 4, [['G', 'Y', 'R', 'P'], ['G', 'O', 'Y', 'P'], ['G', 'B', 'Y', 'P']]))) rfl
  refine (loopRun_step ['G', 'B', 'Y', 'P'] 6 5 ['G', 'Y', 'R', 'P'] E72 [['B', 'G', 'O', 'R']] 1 2 E73 ['G', 'O', 'Y', 'P'] [['B', 'G', 'O', 'R'], ['G', 'Y', 'R', 'P']] rfl ((calc_eq_fastP ['G', 'B', 'Y', 'P'] ['G', 'Y', 'R', 'P'] (by decide) (by decide)).trans (by decide)) (by decide) pe73 rfl nx73 (by decide) (by decide) (by decide)).trans ?_
  refine Eq.trans (step_lift ['G', 'Y', 'R', 'P'] (?_ : loopRun (honest ['G', 'B', 'Y', 'P']) 5 (some ['G', 'O', 'Y', 'P']) E73 [['B', 'G', 'O', 'R'], ['G', 'Y', 'R', 'P']] = (RunResult.solved ['G', 'B', 'Y', 'P'] 4, [['G', 'O', 'Y', 'P'], ['G', 'B', 'Y', 'P']]))) rfl
  refine (loopRun_step ['G', 'B', 'Y', 'P'] 5 4 ['G', 'O', 'Y', 'P'] E73 [['B', 'G', 'O', 'R'], ['G', 'Y', 'R', 'P']] 0 3 [['G', 'B', 'Y', 'P']] ['G', 'B', 'Y', 'P'] [['B', 'G', 'O', 'R'], ['G', 'Y', 'R', 'P'], ['G', 'O', 'Y', 'P']] rfl ((calc_eq_fastP ['G', 'B', 'Y', 'P'] ['G', 'O', 'Y', 'P'] (by decide) (by decide)).trans (by decide)) (by decide) pe74 rfl (findNextGuess_singleton ['G', 'B', 'Y', 'P'] [['B', 'G', 'O', 'R'], ['G', 'Y', 'R', 'P'], ['G', 'O', 'Y', 'P']]) (by decide) (by decide) (by decide)).trans ?_
  refine Eq.trans (step_lift ['G', 'O', 'Y', 'P'] (?_ : loopRun (honest ['G', 'B', 'Y', 'P']) 4 (some ['G', 'B', 'Y', 'P']) [['G', 'B', 'Y', 'P']] [['B', 'G', 'O', 'R'], ['G', 'Y', 'R', 'P'], ['G', 'O', 'Y', 'P']] = (RunResult.solved ['G', 'B', 'Y', 'P'] 4, [['G', 'B', 'Y', 'P']]))) rfl
  exact loopRun_last ['G', 'B', 'Y', 'P'] 4 3 [['G', 'B', 'Y', 'P']] [['B', 'G', 'O', 'R'], ['G', 'Y', 'R', 'P'], ['G', 'O', 'Y', 'P']] rfl rfl (by decide)

lemma rs69 : loopRun (honest ['G', 'B', 'P', 'O']) 7 none S0 [] =
    (RunResult.solved ['G', 'B', 'P', 'O'] 4, [['B', 'G', 'O', 'R'], ['G', 'O', 'R', 'Y'], ['R', 'O', 'B', 'P'], ['G', 'B', 'P', 'O']]) := by
  refine (loopRun_none' (honest ['G', 'B', 'P', 'O']) 7 S0 []).trans ?_
  refine (loopRun_step ['G', 'B', 'P', 'O'] 7 6 ['B', 'G', 'O', 'R'] S0 [] 3 0 E65 ['G', 'O', 'R', 'Y'] [['B', 'G', 'O', 'R']] rfl ((calc_eq_fastP ['G', 'B', 'P', 'O'] ['B', 'G', 'O', 'R'] (by decide) (by decide)).trans (by decide)) (by decide) pe65 rfl nx65 (by decide) (by decide) (by decide)).trans ?_
  refine Eq.trans (step_lift ['B', 'G', 'O', 'R'] (?_ : loopRun (honest ['G', 'B', 'P', 'O']) 6 (some ['G', 'O', 'R', 'Y']) E65 [['B', 'G', 'O', 'R']] = (RunResult.solved ['G', 'B', 'P', 'O'] 4, [['G', 'O', 'R', 'Y'], ['R', 'O', 'B', 'P'], ['G', 'B', 'P', 'O']]))) rfl
  refine (loopRun_step ['G', 'B', 'P', 'O'] 6 5 ['G', 'O', 'R', 'Y'] E65 [['B', 'G', 'O', 'R']] 1 1 E75 ['R', 'O', 'B', 'P'] [['B', 'G', 'O', 'R'], ['G', 'O', 'R', 'Y']] rfl ((calc_eq_fastP ['G', 'B', 'P', 'O'] ['G', 'O', 'R', 'Y'] (by decide) (by decide)).trans (by decide)) (by decide) pe75 rfl nx75 (by decide) (by decide) (by decide)).trans ?_
  refine Eq.trans (step_lift ['G', 'O', 'R', 'Y'] (?_ : loopRun (honest ['G', 'B', 'P', 'O']) 5 (some ['R', 'O', 'B', 'P']) E75 [['B', 'G', 'O', 'R'], ['G', 'O', 'R', 'Y']] = (RunResult.solved ['G', 'B', 'P', 'O'] 4, [['R', 'O', 'B', 'P'], ['G', 'B', 'P', 'O']]))) rfl
  refine (loopRun_step ['G', 'B', 'P', 'O'] 5 4 ['R', 'O', 'B', 'P'] E75 [['B', 'G', 'O', 'R'], ['G', 'O', 'R', 'Y']] 3 0 E76 ['G', 'B', 'P', 'O'] [['B', 'G', 'O', 'R'], ['G', 'O', 'R', 'Y'], ['R', 'O', 'B', 'P']] rfl ((calc_eq_fastP ['G', 'B', 'P', 'O'] ['R', 'O', 'B', 'P'] (by decide) (by decide)).trans (by decide)) (by decide) pe76 rfl nx76 (by decide) (by decide) (by decide)).trans ?_
  refine Eq.trans (step_lift ['R', 'O', 'B', 'P'] (?_ : loopRun (honest ['G', 'B', 'P', 'O']) 4 (some ['G', 'B', 'P', 'O']) E76 [['B', 'G', 'O', 'R'], ['G', 'O', 'R', 'Y'], ['R', 'O', 'B', 'P']] = (RunResult.solved ['G', 'B', 'P', 'O'] 4, [['G', 'B', 'P', 'O']]))) rfl
  exact loopRun_last ['G', 'B', 'P', 'O'] 4 3 E76 [['B', 'G', 'O', 'R'], ['G', 'O', 'R', 'Y'], ['R', 'O', 'B', 'P']] rfl rfl (by decide)

lemma rs70 : loopRun (honest ['G', 'B', 'P', 'R']) 7 none S0 [] =
    (RunResult.solved ['G', 'B', 'P', 'R'] 4, [['B', 'G', 'O', 'R'], ['B', 'O', 'R', 'Y'], ['G', 'P', 'O', 'B'], ['G', 'B', 'P', 'R']]) := by
  refine (loopRun_none' (honest ['G', 'B', 'P', 'R']) 7 S0 []).trans ?_
  refine (loopRun_step ['G', 'B', 'P', 'R'] 7 6 ['B', 'G', 'O', 'R'] S0 [] 2 1 E13 ['B', 'O', 'R', 'Y'] [['B', 'G', 'O', 'R']] rfl ((calc_eq_fastP ['G', 'B', 'P', 'R'] ['B', 'G', 'O', 'R'] (by decide) (by decide)).trans (by decide)) (by decide) pe13 rfl nx13 (by decide) (by decide) (by decide)).trans ?_
  refine Eq.trans (step_lift ['B', 'G', 'O', 'R'] (?_ : loopRun (honest ['G', 'B', 'P', 'R']) 6 (some ['B', 'O', 'R', 'Y']) E13 [['B', 'G', 'O', 'R']] = (RunResult.solved ['G', 'B', 'P', 'R'] 4, [['B', 'O', 'R', 'Y'], ['G', 'P', 'O', 'B'], ['G', 'B', 'P', 'R']]))) rfl
  refine (loopRun_step ['G', 'B', 'P', 'R'] 6 5 ['B', 'O', 'R', 'Y'] E13 [['B', 'G', 'O', 'R']] 2 0 E62 ['G', 'P', 'O', 'B'] [['B', 'G', 'O', 'R'], ['B', 'O', 'R', 'Y']] rfl ((calc_eq_fastP ['G', 'B', 'P', 'R'] ['B', 'O', 'R', 'Y'] (by decide) (by decide)).trans (by decide)) (by decide) pe62 rfl nx62 (by decide) (by decide) (by decide)).trans ?_
  refine Eq.trans (step_lift ['B', 'O', 'R', 'Y'] (?_ : loopRun (honest ['G', 'B', 'P', 'R']) 5 (some ['G', 'P', 'O', 'B']) E62 [['B', 'G', 'O', 'R'], ['B', 'O', 'R', 'Y']] = (RunResult.solved ['G', 'B', 'P', 'R'] 4, [['G', 'P', 'O', 'B'], ['G', 'B', 'P', 'R']]))) rfl
  refine (loopRun_step ['G', 'B', 'P', 'R'] 5 4 ['G', 'P', 'O', 'B'] E62 [['B', 'G', 'O', 'R'], ['B', 'O', 'R', 'Y']] 2 1 E77 ['G', 'B', 'P', 'R'] [['B', 'G', 'O', 'R'], ['B', 'O', 'R', 'Y'], ['G', 'P', 'O', 'B']] rfl ((calc_eq_fastP ['G', 'B', 'P', 'R'] ['G', 'P', 'O', 'B'] (by decide) (by decide)).trans (by decide)) (by decide) pe77 rfl nx77 (by decide) (by decide) (by decide)).trans ?_
  refine Eq.trans (step_lift ['G', 'P', 'O', 'B'] (?_ : loopRun (honest ['G', 'B', 'P', 'R']) 4 (some ['G', 'B', 'P', 'R']) E77 [['B', 'G', 'O', 'R'], ['B', 'O', 'R', 'Y'], ['G', 'P', 'O', 'B']] = (RunResult.solved ['G', 'B', 'P', 'R'] 4, [['G', 'B', 'P', 'R']]))) rfl
  exact loopRun_last ['G', 'B', 'P', 'R'] 4 3 E77 [['B', 'G', 'O', 'R'], ['B', 'O', 'R', 'Y'], ['G', 'P', 'O', 'B']] rfl rfl (by decide)

lemma rs71 : loopRun (honest ['G', 'B', 'P', 'Y']) 7 none S0 [] =
    (RunResult.solved ['G', 'B', 'P', 'Y'] 3, [['B', 'G', 'O', 'R'], ['G', 'Y', 'R', 'P'], ['G', 'B', 'P', 'Y']]) := by
  refine (loopRun_none' (honest ['G', 'B', 'P', 'Y']) 7 S0 []).trans ?_
  refine (loopRun_step ['G', 'B', 'P', 'Y'] 7 6 ['B', 'G', 'O', 'R'] S0 [] 2 0 E72 ['G', 'Y', 'R', 'P'] [['B', 'G', 'O', 'R']] rfl ((calc_eq_fastP ['G', 'B', 'P', 'Y'] ['B', 'G', 'O', 'R'] (by decide) (by decide)).trans (by decide)) (by decide) pe72 rfl nx72 (by decide) (by decide) (by decide)).trans ?_
  refine Eq.trans (step_lift ['B', 'G', 'O', 'R'] (?_ : loopRun (honest ['G', 'B', 'P', 'Y']) 6 (some ['G', 'Y', 'R', 'P']) E72 [['B', 'G', 'O', 'R']] = (RunResult.solved ['G', 'B', 'P', 'Y'] 3, [['G', 'Y', 'R', 'P'], ['G', 'B', 'P', 'Y']]))) rfl
  refine (loopRun_step ['G', 'B', 'P', 'Y'] 6 5 ['G', 'Y', 'R', 'P'] E72 [['B', 'G', 'O', 'R']] 2 1 E78 ['G', 'B', 'P', 'Y'] [['B', 'G', 'O', 'R'], ['G', 'Y', 'R', 'P']] rfl ((calc_eq_fastP ['G', 'B', 'P', 'Y'] ['G', 'Y', 'R', 'P'] (by decide) (by decide)).trans (by decide)) (by decide) pe78 rfl nx78 (by decide) (by decide) (by decide)).trans ?_
  refine Eq.trans (step_lift ['G', 'Y', 'R', 'P'] (?_ : loopRun (honest ['G', 'B', 'P', 'Y']) 5 (some ['G', 'B', 'P', 'Y']) E78 [['B', 'G', 'O', 'R'], ['G', 'Y', 'R', 'P']] = (RunResult.solved ['G', 'B', 'P', 'Y'] 3, [['G', 'B', 'P', 'Y']]))) rfl
  exact loopRun_last ['G', 'B', 'P', 'Y'] 5 4 E78 [['B', 'G', 'O', 'R'], ['G', 'Y', 'R', 'P']] rfl rfl (by decide)

lemma rs72 : loopRun (honest ['G', 'O', 'B', 'R']) 7 none S0 [] =
    (RunResult.solved ['G', 'O', 'B', 'R'] 4, [['B', 'G', 'O', 'R'], ['B', 'O', 'R', 'G'], ['B', 'R', 'G', 'O'], ['G', 'O', 'B', 'R']]) := by
  refine (loopRun_none' (honest ['G', 'O', 'B', 'R']) 7 S0 []).trans ?_
  refine (loopRun_step ['G', 'O', 'B', 'R'] 7 6 ['B', 'G', 'O', 'R'] S0 [] 3 1 E16 ['B', 'O', 'R', 'G'] [['B', 'G', 'O', 'R']] rfl ((calc_eq_fastP ['G', 'O', 'B', 'R'] ['B', 'G', 'O', 'R'] (by decide) (by decide)).trans (by decide)) (by decide) pe16 rfl nx16 (by decide) (by decide) (by decide)).trans ?_
  refine Eq.trans (step_lift ['B', 'G', 'O', 'R'] (?_ : loopRun (honest ['G', 'O', 'B', 'R']) 6 (some ['B', 'O', 'R', 'G']) E16 [['B', 'G', 'O', 'R']] = (RunResult.solved ['G', 'O', 'B', 'R'] 4, [['B', 'O', 'R', 'G'], ['B', 'R', 'G', 'O'], ['G', 'O', 'B', 'R']]))) rfl
  refine (loopRun_step ['G', 'O', 'B', 'R'] 6 5 ['B', 'O', 'R', 'G'] E16 [['B', 'G', 'O', 'R']] 3 1 E24 ['B', 'R', 'G', 'O'] [['B', 'G', 'O', 'R'], ['B', 'O', 'R', 'G']] rfl ((calc_eq_fastP ['G', 'O', 'B', 'R'] ['B', 'O', 'R', 'G'] (by decide) (by decide)).trans (by decide)) (by decide) pe24 rfl nx24 (by decide) (by decide) (by decide)).trans ?_
  refine Eq.trans (step_lift ['B', 'O', 'R', 'G'] (?_ : loopRun (honest ['G', 'O', 'B', 'R']) 5 (some ['B', 'R', 'G', 'O']) E24 [['B', 'G', 'O', 'R'], ['B', 'O', 'R', 'G']] = (RunResult.solved ['G', 'O', 'B', 'R'] 4, [['B', 'R', 'G', 'O'], ['G', 'O', 'B', 'R']]))) rfl
  refine (loopRun_step ['G', 'O', 'B', 'R'] 5 4 ['B', 'R', 'G', 'O'] E24 [['B', 'G', 'O', 'R'], ['B', 'O', 'R', 'G']] 4 0 E79 ['G', 'O', 'B', 'R'] [['B', 'G', 'O', 'R'], ['B', 'O', 'R', 'G'], ['B', 'R', 'G', 'O']] rfl ((calc_eq_fastP ['G', 'O', 'B', 'R'] ['B', 'R', 'G', 'O'] (by decide) (by decide)).trans (by decide)) (by decide) pe79 rfl nx79 (by decide) (by decide) (by decide)).trans ?_
  refine Eq.trans (step_lift ['B', 'R', 'G', 'O'] (?_ : loopRun (honest ['G', 'O', 'B', 'R']) 4 (some ['G', 'O', 'B', 'R']) E79 [['B', 'G', 'O', 'R'], ['B', 'O', 'R', 'G'], ['B', 'R', 'G', 'O']] = (RunResult.solved ['G', 'O', 'B', 'R'] 4, [['G', 'O', 'B', 'R']]))) rfl
  exact loopRun_last ['G', 'O', 'B', 'R'] 4 3 E79 [['B', 'G', 'O', 'R'], ['B', 'O', 'R', 'G'], ['B', 'R', 'G', 'O']] rfl rfl (by decide)

lemma rs73 : loopRun (honest ['G', 'O', 'B', 'Y']) 7 none S0 [] =
    (RunResult.solved ['G', 'O', 'B', 'Y'] 4, [['B', 'G', 'O', 'R'], ['G', 'O', 'R', 'Y'], ['G', 'B', 'R', 'Y'], ['G', 'O', 'B', 'Y']]) := by
  refine (loopRun_none' (honest ['G', 'O', 'B', 'Y']) 7 S0 []).trans ?_
  refine (loopRun_step ['G', 'O', 'B', 'Y'] 7 6 ['B', 'G', 'O', 'R'] S0 [] 3 0 E65 ['G', 'O', 'R', 'Y'] [['B', 'G', 'O', 'R']] rfl ((calc_eq_fastP ['G', 'O', 'B', 'Y'] ['B', 'G', 'O', 'R'] (by decide) (by decide)).trans (by decide)) (by decide) pe65 rfl nx65 (by decide) (by decide) (by decide)).trans ?_
  refine Eq.trans (step_lift ['B', 'G', 'O', 'R'] (?_ : loopRun (honest ['G', 'O', 'B', 'Y']) 6 (some ['G', 'O', 'R', 'Y']) E65 [['B', 'G', 'O', 'R']] = (RunResult.solved ['G', 'O', 'B', 'Y'] 4, [['G', 'O', 'R', 'Y'], ['G', 'B', 'R', 'Y'], ['G', 'O', 'B', 'Y']]))) rfl
  refine (loopRun_step ['G', 'O', 'B', 'Y'] 6 5 ['G', 'O', 'R', 'Y'] E65 [['B', 'G', 'O', 'R']] 0 3 E66 ['G', 'B', 'R', 'Y'] [['B', 'G', 'O', 'R'], ['G', 'O', 'R', 'Y']] rfl ((calc_eq_fastP ['G', 'O', 'B', 'Y'] ['G', 'O', 'R', 'Y'] (by decide) (by decide)).trans (by decide)) (by decide) pe66 rfl nx66 (by decide) (by decide) (by decide)).trans ?_
  refine Eq.trans (step_lift ['G', 'O', 'R', 'Y'] (?_ : loopRun (honest ['G', 'O', 'B', 'Y']) 5 (some ['G', 'B', 'R', 'Y']) E66 [['B', 'G', 'O', 'R'], ['G', 'O', 'R', 'Y']] = (RunResult.solved ['G', 'O', 'B', 'Y'] 4, [['G', 'B', 'R', 'Y'], ['G', 'O', 'B', 'Y']]))) rfl
  refine (loopRun_step ['G', 'O', 'B', 'Y'] 5 4 ['G', 'B', 'R', 'Y'] E66 [['B', 'G', 'O', 'R'], ['G', 'O', 'R', 'Y']] 1 2 [['G', 'O', 'B', 'Y']] ['G', 'O', 'B', 'Y'] [['B', 'G', 'O', 'R'], ['G', 'O', 'R', 'Y'], ['G', 'B', 'R', 'Y']] rfl ((calc_eq_fastP ['G', 'O', 'B', 'Y'] ['G', 'B', 'R', 'Y'] (by decide) (by decide)).trans (by decide)) (by decide) pe80 rfl (findNextGuess_singleton ['G', 'O', 'B', 'Y'] [['B', 'G', 'O', 'R'], ['G', 'O', 'R', 'Y'], ['G', 'B', 'R', 'Y']]) (by decide) (by decide) (by decide)).trans ?_
  refine Eq.trans (step_lift ['G', 'B', 'R', 'Y'] (?_ : loopRun (honest ['G', 'O', 'B', 'Y']) 4 (some ['G', 'O', 'B', 'Y']) [['G', 'O', 'B', 'Y']] [['B', 'G', 'O', 'R'], ['G', 'O', 'R', 'Y'], ['G', 'B', 'R', 'Y']] = (RunResult.solved ['G', 'O', 'B', 'Y'] 4, [['G', 'O', 'B', 'Y']]))) rfl
  exact loopRun_last ['G', 'O', 'B', 'Y'] 4 3 [['G', 'O', 'B', 'Y']] [['B', 'G', 'O', 'R'], ['G', 'O', 'R', 'Y'], ['G', 'B', 'R', 'Y']] rfl rfl (by decide)

lemma rs74 : loopRun (honest ['G', 'O', 'B', 'P']) 7 none S0 [] =
    (RunResult.solved ['G', 'O', 'B', 'P'] 4, [['B', 'G', 'O', 'R'], ['G', 'O', 'R', 'Y'], ['G', 'B', 'R', 'P'], ['G', 'O', 'B', 'P']]) := by
  refine (loopRun_none' (honest ['G', 'O', 'B', 'P']) 7 S0 []).trans ?_
  refine (loopRun_step ['G', 'O', 'B', 'P'] 7 6 ['B', 'G', 'O', 'R'] S0 [] 3 0 E65 ['G', 'O', 'R', 'Y'] [['B', 'G', 'O', 'R']] rfl ((calc_eq_fastP ['G', 'O', 'B', 'P'] ['B', 'G', 'O', 'R'] (by decide) (by decide)).trans (by decide)) (by decide) pe65 rfl nx65 (by decide) (by decide) (by decide)).trans ?_
  refine Eq.trans (step_lift ['B', 'G', 'O', 'R'] (?_ : loopRun (honest ['G', 'O', 'B', 'P']) 6 (some ['G', 'O', 'R', 'Y']) E65 [['B', 'G', 'O', 'R']] = (RunResult.solved ['G', 'O', 'B', 'P'] 4, [['G', 'O', 'R', 'Y'], ['G', 'B', 'R', 'P'], ['G', 'O', 'B', 'P']]))) rfl
  refine (loopRun_step ['G', 'O', 'B', 'P'] 6 5 ['G', 'O', 'R', 'Y'] E65 [['B', 'G', 'O', 'R']] 0 2 E67 ['G', 'B', 'R', 'P'] [['B', 'G', 'O', 'R'], ['G', 'O', 'R', 'Y']] rfl ((calc_eq_fastP ['G', 'O', 'B', 'P'] ['G', 'O', 'R', 'Y'] (by decide) (by decide)).trans (by decide)) (by decide) pe67 rfl nx67 (by decide) (by decide) (by decide)).trans ?_
  refine Eq.trans (step_lift ['G', 'O', 'R', 'Y'] (?_ : loopRun (honest ['G', 'O', 'B', 'P']) 5 (some ['G', 'B', 'R', 'P']) E67 [['B', 'G', 'O', 'R'], ['G', 'O', 'R', 'Y']] = (RunResult.solved ['G', 'O', 'B', 'P'] 4, [['G', 'B', 'R', 'P'], ['G', 'O', 'B', 'P']]))) rfl
  refine (loopRun_step ['G', 'O', 'B', 'P'] 5 4 ['G', 'B', 'R', 'P'] E67 [['B', 'G', 'O', 'R'], ['G', 'O', 'R', 'Y']] 1 2 [['G', 'O', 'B', 'P']] ['G', 'O', 'B', 'P'] [['B', 'G', 'O', 'R'], ['G', 'O', 'R', 'Y'], ['G', 'B', 'R', 'P']] rfl ((calc_eq_fastP ['G', 'O', 'B', 'P'] ['G', 'B', 'R', 'P'] (by decide) (by decide)).trans (by decide)) (by decide) pe81 rfl (findNextGuess_singleton ['G', 'O', 'B', 'P'] [['B', 'G', 'O', 'R'], ['G', 'O', 'R', 'Y'], ['G', 'B', 'R', 'P']]) (by decide) (by decide) (by decide)).trans ?_
  refine Eq.trans (step_lift ['G', 'B', 'R', 'P'] (?_ : loopRun (honest ['G', 'O', 'B', 'P']) 4 (some ['G', 'O', 'B', 'P']) [['G', 'O', 'B', 'P']] [['B', 'G', 'O', 'R'], ['G', 'O', 'R', 'Y'], ['G', 'B', 'R', 'P']] = (RunResult.solved ['G', 'O', 'B', 'P'] 4, [['G', 'O', 'B', 'P']]))) rfl
  exact loopRun_last ['G', 'O', 'B', 'P'] 4 3 [['G', 'O', 'B', 'P']] [['B', 'G', 'O', 'R'], ['G', 'O', 'R', 'Y'], ['G', 'B', 'R', 'P']] rfl rfl (by decide)

lemma rs75 : loopRun (honest ['G', 'O', 'R', 'B']) 7 none S0 [] =
    (RunResult.solved ['G', 'O', 'R', 'B'] 3, [['B', 'G', 'O', 'R'], ['G', 'B', 'R', 'O'], ['G', 'O', 'R', 'B']]) := by
  refine (loopRun_none' (honest ['G', 'O', 'R', 'B']) 7 S0 []).trans ?_
  refine (loopRun_step ['G', 'O', 'R', 'B'] 7 6 ['B', 'G', 'O', 'R'] S0 [] 4 0 E64 ['G', 'B', 'R', 'O'] [['B', 'G', 'O', 'R']] rfl ((calc_eq_fastP ['G', 'O', 'R', 'B'] ['B', 'G', 'O', 'R'] (by decide) (by decide)).trans (by decide)) (by decide) pe64 rfl nx64 (by decide) (by decide) (by decide)).trans ?_
  refine Eq.trans (step_lift ['B', 'G', 'O', 'R'] (?_ : loopRun (honest ['G', 'O', 'R', 'B']) 6 (some ['G', 'B', 'R', 'O']) E64 [['B', 'G', 'O', 'R']] = (RunResult.solved ['G', 'O', 'R', 'B'] 3, [['G', 'B', 'R', 'O'], ['G', 'O', 'R', 'B']]))) rfl
  refine (loopRun_step ['G', 'O', 'R', 'B'] 6 5 ['G', 'B', 'R', 'O'] E64 [['B', 'G', 'O', 'R']] 2 2 E82 ['G', 'O', 'R', 'B'] [['B', 'G', 'O', 'R'], ['G', 'B', 'R', 'O']] rfl ((calc_eq_fastP ['G', 'O', 'R', 'B'] ['G', 'B', 'R', 'O'] (by decide) (by decide)).trans (by decide)) (by decide) pe82 rfl nx82 (by decide) (by decide) (by decide)).trans ?_
  refine Eq.trans (step_lift ['G', 'B', 'R', 'O'] (?_ : loopRun (honest ['G', 'O', 'R', 'B']) 5 (some ['G', 'O', 'R', 'B']) E82 [['B', 'G', 'O', 'R'], ['G', 'B', 'R', 'O']] = (RunResult.solved ['G', 'O', 'R', 'B'] 3, [['G', 'O', 'R', 'B']]))) rfl
  exact loopRun_last ['G', 'O', 'R', 'B'] 5 4 E82 [['B', 'G', 'O', 'R'], ['G', 'B', 'R', 'O']] rfl rfl (by decide)

lemma rs76 : loopRun (honest ['G', 'O', 'R', 'Y']) 7 none S0 [] =
    (RunResult.solved ['G', 'O', 'R', 'Y'] 2, [['B', 'G', 'O', 'R'], ['G', 'O', 'R', 'Y']]) := by
  refine (loopRun_none' (honest ['G', 'O', 'R', 'Y']) 7 S0 []).trans ?_
  refine (loopRun_step ['G', 'O', 'R', 'Y'] 7 6 ['B', 'G', 'O', 'R'] S0 [] 3 0 E65 ['G', 'O', 'R', 'Y'] [['B', 'G', 'O', 'R']] rfl ((calc_eq_fastP ['G', 'O', 'R', 'Y'] ['B', 'G', 'O', 'R'] (by decide) (by decide)).trans (by decide)) (by decide) pe65 rfl nx65 (by decide) (by decide) (by decide)).trans ?_
  refine Eq.trans (step_lift ['B', 'G', 'O', 'R'] (?_ : loopRun (honest ['G', 'O', 'R', 'Y']) 6 (some ['G', 'O', 'R', 'Y']) E65 [['B', 'G', 'O', 'R']] = (RunResult.solved ['G', 'O', 'R', 'Y'] 2, [['G', 'O', 'R', 'Y']]))) rfl
  exact loopRun_last ['G', 'O', 'R', 'Y'] 6 5 E65 [['B', 'G', 'O', 'R']] rfl rfl (by decide)

lemma rs77 : loopRun (honest ['G', 'O', 'R', 'P']) 7 none S0 [] =
    (RunResult.solved ['G', 'O', 'R', 'P'] 4, [['B', 'G', 'O', 'R'], ['G', 'O', 'R', 'Y'], ['G', 'B', 'R', 'Y'], ['G', 'O', 'R', 'P']]) := by
  refine (loopRun_none' (honest ['G', 'O', 'R', 'P']) 7 S0 []).trans ?_
  refine (loopRun_step ['G', 'O', 'R', 'P'] 7 6 ['B', 'G', 'O', 'R'] S0 [] 3 0 E65 ['G', 'O', 'R', 'Y'] [['B', 'G', 'O', 'R']] rfl ((calc_eq_fastP ['G', 'O', 'R', 'P'] ['B', 'G', 'O', 'R'] (by decide) (by decide)).trans (by decide)) (by decide) pe65 rfl nx65 (by decide) (by decide) (by decide)).trans ?_
  refine Eq.trans (step_lift ['B', 'G', 'O', 'R'] (?_ : loopRun (honest ['G', 'O', 'R', 'P']) 6 (some ['G', 'O', 'R', 'Y']) E65 [['B', 'G', 'O', 'R']] = (RunResult.solved ['G', 'O', 'R', 'P'] 4, [['G', 'O', 'R', 'Y'], ['G', 'B', 'R', 'Y'], ['G', 'O', 'R', 'P']]))) rfl
  refine (loopRun_step ['G', 'O', 'R', 'P'] 6 5 ['G', 'O', 'R', 'Y'] E65 [['B', 'G', 'O', 'R']] 0 3 E66 ['G', 'B', 'R', 'Y'] [['B', 'G', 'O', 'R'], ['G', 'O', 'R', 'Y']] rfl ((calc_eq_fastP ['G', 'O', 'R', 'P'] ['G', 'O', 'R', 'Y'] (by decide) (by decide)).trans (by decide)) (by decide) pe66 rfl nx66 (by decide) (by decide) (by decide)).trans ?_
  refine Eq.trans (step_lift ['G', 'O', 'R', 'Y'] (?_ : loopRun (honest ['G', 'O', 'R', 'P']) 5 (some ['G', 'B', 'R', 'Y']) E66 [['B', 'G', 'O', 'R'], ['G', 'O', 'R', 'Y']] = (RunResult.solved ['G', 'O', 'R', 'P'] 4, [['G', 'B', 'R', 'Y'], ['G', 'O', 'R', 'P']]))) rfl
  refine (loopRun_step ['G', 'O', 'R', 'P'] 5 4 ['G', 'B', 'R', 'Y'] E66 [['B', 'G', 'O', 'R'], ['G', 'O', 'R', 'Y']] 0 2 [['G', 'O', 'R', 'P']] ['G', 'O', 'R', 'P'] [['B', 'G', 'O', 'R'], ['G', 'O', 'R', 'Y'], ['G', 'B', 'R', 'Y']] rfl ((calc_eq_fastP ['G', 'O', 'R', 'P'] ['G', 'B', 'R', 'Y'] (by decide) (by decide)).trans (by decide)) (by decide) pe83 rfl (findNextGuess_singleton ['G', 'O', 'R', 'P'] [['B', 'G', 'O', 'R'], ['G', 'O', 'R', 'Y'], ['G', 'B', 'R', 'Y']]) (by decide) (by decide) (by decide)).trans ?_
  refine Eq.trans (step_lift ['G', 'B', 'R', 'Y'] (?_ : loopRun (honest ['G', 'O', 'R', 'P']) 4 (some ['G', 'O', 'R', 'P']) [['G', 'O', 'R', 'P']] [['B', 'G', 'O', 'R'], ['G', 'O', 'R', 'Y'], ['G', 'B', 'R', 'Y']] = (RunResult.solved ['G', 'O', 'R', 'P'] 4, [['G', 'O', 'R', 'P']]))) rfl
  exact loopRun_last ['G', 'O', 'R', 'P'] 4 3 [['G', 'O', 'R', 'P']] [['B', 'G', 'O', 'R'], ['G', 'O', 'R', 'Y'], ['G', 'B', 'R', 'Y']] rfl rfl (by decide)

lemma rs78 : loopRun (honest ['G', 'O', 'Y', 'B']) 7 none S0 [] =
    (RunResult.solved ['G', 'O', 'Y', 'B'] 3, [['B', 'G', 'O', 'R'], ['G', 'O', 'R', 'Y'], ['G', 'O', 'Y', 'B']]) := by
  refine (loopRun_none' (honest ['G', 'O', 'Y', 'B']) 7 S0 []).trans ?_
  refine (loopRun_step ['G', 'O', 'Y', 'B'] 7 6 ['B', 'G', 'O', 'R'] S0 [] 3 0 E65 ['G', 'O', 'R', 'Y'] [['B', 'G', 'O', 'R']] rfl ((calc_eq_fastP ['G', 'O', 'Y', 'B'] ['B', 'G', 'O', 'R'] (by decide) (by decide)).trans (by decide)) (by decide) pe65 rfl nx65 (by decide) (by decide) (by decide)).trans ?_
  refine Eq.trans (step_lift ['B', 'G', 'O', 'R'] (?_ : loopRun (honest ['G', 'O', 'Y', 'B']) 6 (some ['G', 'O', 'R', 'Y']) E65 [['B', 'G', 'O', 'R']] = (RunResult.solved ['G', 'O', 'Y', 'B'] 3, [['G', 'O', 'R', 'Y'], ['G', 'O', 'Y', 'B']]))) rfl
  refine (loopRun_step ['G', 'O', 'Y', 'B'] 6 5 ['G', 'O', 'R', 'Y'] E65 [['B', 'G', 'O', 'R']] 1 2 E84 ['G', 'O', 'Y', 'B'] [['B', 'G', 'O', 'R'], ['G', 'O', 'R', 'Y']] rfl ((calc_eq_fastP ['G', 'O', 'Y', 'B'] ['G', 'O', 'R', 'Y'] (by decide) (by decide)).trans (by decide)) (by decide) pe84 rfl nx84 (by decide) (by decide) (by decide)).trans ?_
  refine Eq.trans (step_lift ['G', 'O', 'R', 'Y'] (?_ : loopRun (honest ['G', 'O', 'Y', 'B']) 5 (some ['G', 'O', 'Y', 'B']) E84 [['B', 'G', 'O', 'R'], ['G', 'O', 'R', 'Y']] = (RunResult.solved ['G', 'O', 'Y', 'B'] 3, [['G', 'O', 'Y', 'B']]))) rfl
  exact loopRun_last ['G', 'O', 'Y', 'B'] 5 4 E84 [['B', 'G', 'O', 'R'], ['G', 'O', 'R', 'Y']] rfl rfl (by decide)

lemma rs79 : loopRun (honest ['G', 'O', 'Y', 'R']) 7 none S0 [] =
    (RunResult.solved ['G', 'O', 'Y', 'R'] 4, [['B', 'G', 'O', 'R'], ['B', 'O', 'R', 'Y'], ['G', 'R', 'O', 'Y'], ['G', 'O', 'Y', 'R']]) := by
  refine (loopRun_none' (honest ['G', 'O', 'Y', 'R']) 7 S0 []).trans ?_
  refine (loopRun_step ['G', 'O', 'Y', 'R'] 7 6 ['B', 'G', 'O', 'R'] S0 [] 2 1 E13 ['B', 'O', 'R', 'Y'] [['B', 'G', 'O', 'R']] rfl ((calc_eq_fastP ['G', 'O', 'Y', 'R'] ['B', 'G', 'O', 'R'] (by decide) (by decide)).trans (by decide)) (by decide) pe13 rfl nx13 (by decide) (by decide) (by decide)).trans ?_
  refine Eq.trans (step_lift ['B', 'G', 'O', 'R'] (?_ : loopRun (honest ['G', 'O', 'Y', 'R']) 6 (some ['B', 'O', 'R', 'Y']) E13 [['B', 'G', 'O', 'R']] = (RunResult.solved ['G', 'O', 'Y', 'R'] 4, [['B', 'O', 'R', 'Y'], ['G', 'R', 'O', 'Y'], ['G', 'O', 'Y', 'R']]))) rfl
  refine (loopRun_step ['G', 'O', 'Y', 'R'] 6 5 ['B', 'O', 'R', 'Y'] E13 [['B', 'G', 'O', 'R']] 2 1 E29 ['G', 'R', 'O', 'Y'] [['B', 'G', 'O', 'R'], ['B', 'O', 'R', 'Y']] rfl ((calc_eq_fastP ['G', 'O', 'Y', 'R'] ['B', 'O', 'R', 'Y'] (by decide) (by decide)).trans (by decide)) (by decide) pe29 rfl nx29 (by decide) (by decide) (by decide)).trans ?_
  refine Eq.trans (step_lift ['B', 'O', 'R', 'Y'] (?_ : loopRun (honest ['G', 'O', 'Y', 'R']) 5 (some ['G', 'R', 'O', 'Y']) E29 [['B', 'G', 'O', 'R'], ['B', 'O', 'R', 'Y']] = (RunResult.solved ['G', 'O', 'Y', 'R'] 4, [['G', 'R', 'O', 'Y'], ['G', 'O', 'Y', 'R']]))) rfl
  refine (loopRun_step ['G', 'O', 'Y', 'R'] 5 4 ['G', 'R', 'O', 'Y'] E29 [['B', 'G', 'O', 'R'], ['B', 'O', 'R', 'Y']] 3 1 [['G', 'O', 'Y', 'R']] ['G', 'O', 'Y', 'R'] [['B', 'G', 'O', 'R'], ['B', 'O', 'R', 'Y'], ['G', 'R', 'O', 'Y']] rfl ((calc_eq_fastP ['G', 'O', 'Y', 'R'] ['G', 'R', 'O', 'Y'] (by decide) (by decide)).trans (by decide)) (by decide) pe85 rfl (findNextGuess_singleton ['G', 'O', 'Y', 'R'] [['B', 'G', 'O', 'R'], ['B', 'O', 'R', 'Y'], ['G', 'R', 'O', 'Y']]) (by decide) (by decide) (by decide)).trans ?_
  refine Eq.trans (step_lift ['G', 'R', 'O', 'Y'] (?_ : loopRun (honest ['G', 'O', 'Y', 'R']) 4 (some ['G', 'O', 'Y', 'R']) [['G', 'O', 'Y', 'R']] [['B', 'G', 'O', 'R'], ['B', 'O', 'R', 'Y'], ['G', 'R', 'O', 'Y']] = (RunResult.solved ['G', 'O', 'Y', 'R'] 4, [['G', 'O', 'Y', 'R']]))) rfl
  exact loopRun_last ['G', 'O', 'Y', 'R'] 4 3 [['G', 'O', 'Y', 'R']] [['B', 'G', 'O', 'R'], ['B', 'O', 'R', 'Y'], ['G', 'R', 'O', 'Y']] rfl rfl (by decide)

lemma rs80 : loopRun (honest ['G', 'O', 'Y', 'P']) 7 none S0 [] =
    (RunResult.solved ['G', 'O', 'Y', 'P'] 3, [['B', 'G', 'O', 'R'], ['G', 'Y', 'R', 'P'], ['G', 'O', 'Y', 'P']]) := by
  refine (loopRun_none' (honest ['G', 'O', 'Y', 'P']) 7 S0 []).trans ?_
  refine (loopRun_step ['G', 'O', 'Y', 'P'] 7 6 ['B', 'G', 'O', 'R'] S0 [] 2 0 E72 ['G', 'Y', 'R', 'P'] [['B', 'G', 'O', 'R']] rfl ((calc_eq_fastP ['G', 'O', 'Y', 'P'] ['B', 'G', 'O', 'R'] (by decide) (by decide)).trans (by decide)) (by decide) pe72 rfl nx72 (by decide) (by decide) (by decide)).trans ?_
  refine Eq.trans (step_lift ['B', 'G', 'O', 'R'] (?_ : loopRun (honest ['G', 'O', 'Y', 'P']) 6 (some ['G', 'Y', 'R', 'P']) E72 [['B', 'G', 'O', 'R']] = (RunResult.solved ['G', 'O', 'Y', 'P'] 3, [['G', 'Y', 'R', 'P'], ['G', 'O', 'Y', 'P']]))) rfl
  refine (loopRun_step ['G', 'O', 'Y', 'P'] 6 5 ['G', 'Y', 'R', 'P'] E72 [['B', 'G', 'O', 'R']] 1 2 E73 ['G', 'O', 'Y', 'P'] [['B', 'G', 'O', 'R'], ['G', 'Y', 'R', 'P']] rfl ((calc_eq_fastP ['G', 'O', 'Y', 'P'] ['G', 'Y', 'R', 'P'] (by decide) (by decide)).trans (by decide)) (by decide) pe73 rfl nx73 (by decide) (by decide) (by decide)).trans ?_
  refine Eq.trans (step_lift ['G', 'Y', 'R', 'P'] (?_ : loopRun (honest ['G', 'O', 'Y', 'P']) 5 (some ['G', 'O', 'Y', 'P']) E73 [['B', 'G', 'O', 'R'], ['G', 'Y', 'R', 'P']] = (RunResult.solved ['G', 'O', 'Y', 'P'] 3, [['G', 'O', 'Y', 'P']]))) rfl
  exact loopRun_last ['G', 'O', 'Y', 'P'] 5 4 E73 [['B', 'G', 'O', 'R'], ['G', 'Y', 'R', 'P']] rfl rfl (by decide)

lemma rs81 : loopRun (honest ['G', 'O', 'P', 'B']) 7 none S0 [] =
    (RunResult.solved ['G', 'O', 'P', 'B'] 4, [['B', 'G', 'O', 'R'], ['G', 'O', 'R', 'Y'], ['G', 'B', 'R', 'P'], ['G', 'O', 'P', 'B']]) := by
  refine (loopRun_none' (honest ['G', 'O', 'P', 'B']) 7 S0 []).trans ?_
  refine (loopRun_step ['G', 'O', 'P', 'B'] 7 6 ['B', 'G', 'O', 'R'] S0 [] 3 0 E65 ['G', 'O', 'R', 'Y'] [['B', 'G', 'O', 'R']] rfl ((calc_eq_fastP ['G', 'O', 'P', 'B'] ['B', 'G', 'O', 'R'] (by decide) (by decide)).trans (by decide)) (by decide) pe65 rfl nx65 (by decide) (by decide) (by decide)).trans ?_
  refine Eq.trans (step_lift ['B', 'G', 'O', 'R'] (?_ : loopRun (honest ['G', 'O', 'P', 'B']) 6 (some ['G', 'O', 'R', 'Y']) E65 [['B', 'G', 'O', 'R']] = (RunResult.solved ['G', 'O', 'P', 'B'] 4, [['G', 'O', 'R', 'Y'], ['G', 'B', 'R', 'P'], ['G', 'O', 'P', 'B']]))) rfl
  refine (loopRun_step ['G', 'O', 'P', 'B'] 6 5 ['G', 'O', 'R', 'Y'] E65 [['B', 'G', 'O', 'R']] 0 2 E67 ['G', 'B', 'R', 'P'] [['B', 'G', 'O', 'R'], ['G', 'O', 'R', 'Y']] rfl ((calc_eq_fastP ['G', 'O', 'P', 'B'] ['G', 'O', 'R', 'Y'] (by decide) (by decide)).trans (by decide)) (by decide) pe67 rfl nx67 (by decide) (by decide) (by decide)).trans ?_
  refine Eq.trans (step_lift ['G', 'O', 'R', 'Y'] (?_ : loopRun (honest ['G', 'O', 'P', 'B']) 5 (some ['G', 'B', 'R', 'P']) E67 [['B', 'G', 'O', 'R'], ['G', 'O', 'R', 'Y']] = (RunResult.solved ['G', 'O', 'P', 'B'] 4, [['G', 'B', 'R', 'P'], ['G', 'O', 'P', 'B']]))) rfl
  refine (loopRun_step ['G', 'O', 'P', 'B'] 5 4 ['G', 'B', 'R', 'P'] E67 [['B', 'G', 'O', 'R'], ['G', 'O', 'R', 'Y']] 2 1 E86 ['G', 'O', 'P', 'B'] [['B', 'G', 'O', 'R'], ['G', 'O', 'R', 'Y'], ['G', 'B', 'R', 'P']] rfl ((calc_eq_fastP ['G', 'O', 'P', 'B'] ['G', 'B', 'R', 'P'] (by decide) (by decide)).trans (by decide)) (by decide) pe86 rfl nx86 (by decide) (by decide) (by decide)).trans ?_
  refine Eq.trans (step_lift ['G', 'B', 'R', 'P'] (?_ : loopRun (honest ['G', 'O', 'P', 'B']) 4 (some ['G', 'O', 'P', 'B']) E86 [['B', 'G', 'O', 'R'], ['G', 'O', 'R', 'Y'], ['G', 'B', 'R', 'P']] = (RunResult.solved ['G', 'O', 'P', 'B'] 4, [['G', 'O', 'P', 'B']]))) rfl
  exact loopRun_last ['G', 'O', 'P', 'B'] 4 3 E86 [['B', 'G', 'O', 'R'], ['G', 'O', 'R', 'Y'], ['G', 'B', 'R', 'P']] rfl rfl (by decide)

lemma rs82 : loopRun (honest ['G', 'O', 'P', 'R']) 7 none S0 [] =
    (RunResult.solved ['G', 'O', 'P', 'R'] 4, [['B', 'G', 'O', 'R'], ['B', 'O', 'R', 'Y'], ['B', 'R', 'G', 'P'], ['G', 'O', 'P', 'R']]) := by
  refine (loopRun_none' (honest ['G', 'O', 'P', 'R']) 7 S0 []).trans ?_
  refine (loopRun_step ['G', 'O', 'P', 'R'] 7 6 ['B', 'G', 'O', 'R'] S0 [] 2 1 E13 ['B', 'O', 'R', 'Y'] [['B', 'G', 'O', 'R']] rfl ((calc_eq_fastP ['G', 'O', 'P', 'R'] ['B', 'G', 'O', 'R'] (by decide) (by decide)).trans (by decide)) (by decide) pe13 rfl nx13 (by decide) (by decide) (by decide)).trans ?_
  refine Eq.trans (step_lift ['B', 'G', 'O', 'R'] (?_ : loopRun (honest ['G', 'O', 'P', 'R']) 6 (some ['B', 'O', 'R', 'Y']) E13 [['B', 'G', 'O', 'R']] = (RunResult.solved ['G', 'O', 'P', 'R'] 4, [['B', 'O', 'R', 'Y'], ['B', 'R', 'G', 'P'], ['G', 'O', 'P', 'R']]))) rfl
  refine (loopRun_step ['G', 'O', 'P', 'R'] 6 5 ['B', 'O', 'R', 'Y'] E13 [['B', 'G', 'O', 'R']] 1 1 E26 ['B', 'R', 'G', 'P'] [['B', 'G', 'O', 'R'], ['B', 'O', 'R', 'Y']] rfl ((calc_eq_fastP ['G', 'O', 'P', 'R'] ['B', 'O', 'R', 'Y'] (by decide) (by decide)).trans (by decide)) (by decide) pe26 rfl nx26 (by decide) (by decide) (by decide)).trans ?_
  refine Eq.trans (step_lift ['B', 'O', 'R', 'Y'] (?_ : loopRun (honest ['G', 'O', 'P', 'R']) 5 (some ['B', 'R', 'G', 'P']) E26 [['B', 'G', 'O', 'R'], ['B', 'O', 'R', 'Y']] = (RunResult.solved ['G', 'O', 'P', 'R'] 4, [['B', 'R', 'G', 'P'], ['G', 'O', 'P', 'R']]))) rfl
  refine (loopRun_step ['G', 'O', 'P', 'R'] 5 4 ['B', 'R', 'G', 'P'] E26 [['B', 'G', 'O', 'R'], ['B', 'O', 'R', 'Y']] 3 0 E87 ['G', 'O', 'P', 'R'] [['B', 'G', 'O', 'R'], ['B', 'O', 'R', 'Y'], ['B', 'R', 'G', 'P']] rfl ((calc_eq_fastP ['G', 'O', 'P', 'R'] ['B', 'R', 'G', 'P'] (by decide) (by decide)).trans (by decide)) (by decide) pe87 rfl nx87 (by decide) (by decide) (by decide)).trans ?_
  refine Eq.trans (step_lift ['B', 'R', 'G', 'P'] (?_ : loopRun (honest ['G', 'O', 'P', 'R']) 4 (some ['G', 'O', 'P', 'R']) E87 [['B', 'G', 'O', 'R'], ['B', 'O', 'R', 'Y'], ['B', 'R', 'G', 'P']] = (RunResult.solved ['G', 'O', 'P', 'R'] 4, [['G', 'O', 'P', 'R']]))) rfl
  exact loopRun_last ['G', 'O', 'P', 'R'] 4 3 E87 [['B', 'G', 'O', 'R'], ['B', 'O', 'R', 'Y'], ['B', 'R', 'G', 'P']] rfl rfl (by decide)

lemma rs83 : loopRun (honest ['G', 'O', 'P', 'Y']) 7 none S0 [] =
    (RunResult.solved ['G', 'O', 'P', 'Y'] 4, [['B', 'G', 'O', 'R'], ['G', 'Y', 'R', 'P'], ['G', 'B', 'P', 'Y'], ['G', 'O', 'P', 'Y']]) := by
  refine (loopRun_none' (honest ['G', 'O', 'P', 'Y']) 7 S0 []).trans ?_
  refine (loopRun_step ['G', 'O', 'P', 'Y'] 7 6 ['B', 'G', 'O', 'R'] S0 [] 2 0 E72 ['G', 'Y', 'R', 'P'] [['B', 'G', 'O', 'R']] rfl ((calc_eq_fastP ['G', 'O', 'P', 'Y'] ['B', 'G', 'O', 'R'] (by decide) (by decide)).trans (by decide)) (by decide) pe72 rfl nx72 (by decide) (by decide) (by decide)).trans ?_
  refine Eq.trans (step_lift ['B', 'G', 'O', 'R'] (?_ : loopRun (honest ['G', 'O', 'P', 'Y']) 6 (some ['G', 'Y', 'R', 'P']) E72 [['B', 'G', 'O', 'R']] = (RunResult.solved ['G', 'O', 'P', 'Y'] 4, [['G', 'Y', 'R', 'P'], ['G', 'B', 'P', 'Y'], ['G', 'O', 'P', 'Y']]))) rfl
  refine (loopRun_step ['G', 'O', 'P', 'Y'] 6 5 ['G', 'Y', 'R', 'P'] E72 [['B', 'G', 'O', 'R']] 2 1 E78 ['G', 'B', 'P', 'Y'] [['B', 'G', 'O', 'R'], ['G', 'Y', 'R', 'P']] rfl ((calc_eq_fastP ['G', 'O', 'P', 'Y'] ['G', 'Y', 'R', 'P'] (by decide) (by decide)).trans (by decide)) (by decide) pe78 rfl nx78 (by decide) (by decide) (by decide)).trans ?_
  refine Eq.trans (step_lift ['G', 'Y', 'R', 'P'] (?_ : loopRun (honest ['G', 'O', 'P', 'Y']) 5 (some ['G', 'B', 'P', 'Y']) E78 [['B', 'G', 'O', 'R'], ['G', 'Y', 'R', 'P']] = (RunResult.solved ['G', 'O', 'P', 'Y'] 4, [['G', 'B', 'P', 'Y'], ['G', 'O', 'P', 'Y']]))) rfl
  refine (loopRun_step ['G', 'O', 'P', 'Y'] 5 4 ['G', 'B', 'P', 'Y'] E78 [['B', 'G', 'O', 'R'], ['G', 'Y', 'R', 'P']] 0 3 [['G', 'O', 'P', 'Y']] ['G', 'O', 'P', 'Y'] [['B', 'G', 'O', 'R'], ['G', 'Y', 'R', 'P'], ['G', 'B', 'P', 'Y']] rfl ((calc_eq_fastP ['G', 'O', 'P', 'Y'] ['G', 'B', 'P', 'Y'] (by decide) (by decide)).trans (by decide)) (by decide) pe88 rfl (findNextGuess_singleton ['G', 'O', 'P', 'Y'] [['B', 'G', 'O', 'R'], ['G', 'Y', 'R', 'P'], ['G', 'B', 'P', 'Y']]) (by decide) (by decide) (by decide)).trans ?_
  refine Eq.trans (step_lift ['G', 'B', 'P', 'Y'] (?_ : loopRun (honest ['G', 'O', 'P', 'Y']) 4 (some ['G', 'O', 'P', 'Y']) [['G', 'O', 'P', 'Y']] [['B', 'G', 'O', 'R'], ['G', 'Y', 'R', 'P'], ['G', 'B', 'P', 'Y']] = (RunResult.solved ['G', 'O', 'P', 'Y'] 4, [['G', 'O', 'P', 'Y']]))) rfl
  exact loopRun_last ['G', 'O', 'P', 'Y'] 4 3 [['G', 'O', 'P', 'Y']] [['B', 'G', 'O', 'R'], ['G', 'Y', 'R', 'P'], ['G', 'B', 'P', 'Y']] rfl rfl (by decide)

lemma rs84 : loopRun (honest ['G', 'R', 'B', 'O']) 7 none S0 [] =
    (RunResult.solved ['G', 'R', 'B', 'O'] 4, [['B', 'G', 'O', 'R'], ['G', 'B', 'R', 'O'], ['G', 'O', 'R', 'B'], ['G', 'R', 'B', 'O']]) := by
  refine (loopRun_none' (honest ['G', 'R', 'B', 'O']) 7 S0 []).trans ?_
  refine (loopRun_step ['G', 'R', 'B', 'O'] 7 6 ['B', 'G', 'O', 'R'] S0 [] 4 0 E64 ['G', 'B', 'R', 'O'] [['B', 'G', 'O', 'R']] rfl ((calc_eq_fastP ['G', 'R', 'B', 'O'] ['B', 'G', 'O', 'R'] (by decide) (by decide)).trans (by decide)) (by decide) pe64 rfl nx64 (by decide) (by decide) (by decide)).trans ?_
  refine Eq.trans (step_lift ['B', 'G', 'O', 'R'] (?_ : loopRun (honest ['G', 'R', 'B', 'O']) 6 (some ['G', 'B', 'R', 'O']) E64 [['B', 'G', 'O', 'R']] = (RunResult.solved ['G', 'R', 'B', 'O'] 4, [['G', 'B', 'R', 'O'], ['G', 'O', 'R', 'B'], ['G', 'R', 'B', 'O']]))) rfl
  refine (loopRun_step ['G', 'R', 'B', 'O'] 6 5 ['G', 'B', 'R', 'O'] E64 [['B', 'G', 'O', 'R']] 2 2 E82 ['G', 'O', 'R', 'B'] [['B', 'G', 'O', 'R'], ['G', 'B', 'R', 'O']] rfl ((calc_eq_fastP ['G', 'R', 'B', 'O'] ['G', 'B', 'R', 'O'] (by decide) (by decide)).trans (by decide)) (by decide) pe82 rfl nx82 (by decide) (by decide) (by decide)).trans ?_
  refine Eq.trans (step_lift ['G', 'B', 'R', 'O'] (?_ : loopRun (honest ['G', 'R', 'B', 'O']) 5 (some ['G', 'O', 'R', 'B']) E82 [['B', 'G', 'O', 'R'], ['G', 'B', 'R', 'O']] = (RunResult.solved ['G', 'R', 'B', 'O'] 4, [['G', 'O', 'R', 'B'], ['G', 'R', 'B', 'O']]))) rfl
  refine (loopRun_step ['G', 'R', 'B', 'O'] 5 4 ['G', 'O', 'R', 'B'] E82 [['B', 'G', 'O', 'R'], ['G', 'B', 'R', 'O']] 3 1 E89 ['G', 'R', 'B', 'O'] [['B', 'G', 'O', 'R'], ['G', 'B', 'R', 'O'], ['G', 'O', 'R', 'B']] rfl ((calc_eq_fastP ['G', 'R', 'B', 'O'] ['G', 'O', 'R', 'B'] (by decide) (by decide)).trans (by decide)) (by decide) pe89 rfl nx89 (by decide) (by decide) (by decide)).trans ?_
  refine Eq.trans (step_lift ['G', 'O', 'R', 'B'] (?_ : loopRun (honest ['G', 'R', 'B', 'O']) 4 (some ['G', 'R', 'B', 'O']) E89 [['B', 'G', 'O', 'R'], ['G', 'B', 'R', 'O'], ['G', 'O', 'R', 'B']] = (RunResult.solved ['G', 'R', 'B', 'O'] 4, [['G', 'R', 'B', 'O']]))) rfl
  exact loopRun_last ['G', 'R', 'B', 'O'] 4 3 E89 [['B', 'G', 'O', 'R'], ['G', 'B', 'R', 'O'], ['G', 'O', 'R', 'B']] rfl rfl (by decide)

lemma rs85 : loopRun (honest ['G', 'R', 'B', 'Y']) 7 none S0 [] =
    (RunResult.solved ['G', 'R', 'B', 'Y'] 4, [['B', 'G', 'O', 'R'], ['G', 'O', 'R', 'Y'], ['G', 'O', 'Y', 'B'], ['G', 'R', 'B', 'Y']]) := by
  refine (loopRun_none' (honest ['G', 'R', 'B', 'Y']) 7 S0 []).trans ?_
  refine (loopRun_step ['G', 'R', 'B', 'Y'] 7 6 ['B', 'G', 'O', 'R'] S0 [] 3 0 E65 ['G', 'O', 'R', 'Y'] [['B', 'G', 'O', 'R']] rfl ((calc_eq_fastP ['G', 'R', 'B', 'Y'] ['B', 'G', 'O', 'R'] (by decide) (by decide)).trans (by decide)) (by decide) pe65 rfl nx65 (by decide) (by decide) (by decide)).trans ?_
  refine Eq.trans (step_lift ['B', 'G', 'O', 'R'] (?_ : loopRun (honest ['G', 'R', 'B', 'Y']) 6 (some ['G', 'O', 'R', 'Y']) E65 [['B', 'G', 'O', 'R']] = (RunResult.solved ['G', 'R', 'B', 'Y'] 4, [['G', 'O', 'R', 'Y'], ['G', 'O', 'Y', 'B'], ['G', 'R', 'B', 'Y']]))) rfl
  refine (loopRun_step ['G', 'R', 'B', 'Y'] 6 5 ['G', 'O', 'R', 'Y'] E65 [['B', 'G', 'O', 'R']] 1 2 E84 ['G', 'O', 'Y', 'B'] [['B', 'G', 'O', 'R'], ['G', 'O', 'R', 'Y']] rfl ((calc_eq_fastP ['G', 'R', 'B', 'Y'] ['G', 'O', 'R', 'Y'] (by decide) (by decide)).trans (by decide)) (by decide) pe84 rfl nx84 (by decide) (by decide) (by decide)).trans ?_
  refine Eq.trans (step_lift ['G', 'O', 'R', 'Y'] (?_ : loopRun (honest ['G', 'R', 'B', 'Y']) 5 (some ['G', 'O', 'Y', 'B']) E84 [['B', 'G', 'O', 'R'], ['G', 'O', 'R', 'Y']] = (RunResult.solved ['G', 'R', 'B', 'Y'] 4, [['G', 'O', 'Y', 'B'], ['G', 'R', 'B', 'Y']]))) rfl
  refine (loopRun_step ['G', 'R', 'B', 'Y'] 5 4 ['G', 'O', 'Y', 'B'] E84 [['B', 'G', 'O', 'R'], ['G', 'O', 'R', 'Y']] 2 1 E90 ['G', 'R', 'B', 'Y'] [['B', 'G', 'O', 'R'], ['G', 'O', 'R', 'Y'], ['G', 'O', 'Y', 'B']] rfl ((calc_eq_fastP ['G', 'R', 'B', 'Y'] ['G', 'O', 'Y', 'B'] (by decide) (by decide)).trans (by decide)) (by decide) pe90 rfl nx90 (by decide) (by decide) (by decide)).trans ?_
  refine Eq.trans (step_lift ['G', 'O', 'Y', 'B'] (?_ : loopRun (honest ['G', 'R', 'B', 'Y']) 4 (some ['G', 'R', 'B', 'Y']) E90 [['B', 'G', 'O', 'R'], ['G', 'O', 'R', 'Y'], ['G', 'O', 'Y', 'B']] = (RunResult.solved ['G', 'R', 'B', 'Y'] 4, [['G', 'R', 'B', 'Y']]))) rfl
  exact loopRun_last ['G', 'R', 'B', 'Y'] 4 3 E90 [['B', 'G', 'O', 'R'], ['G', 'O', 'R', 'Y'], ['G', 'O', 'Y', 'B']] rfl rfl (by decide)

lemma rs86 : loopRun (honest ['G', 'R', 'B', 'P']) 7 none S0 [] =
    (RunResult.solved ['G', 'R', 'B', 'P'] 4, [['B', 'G', 'O', 'R'], ['G', 'O', 'R', 'Y'], ['R', 'O', 'B', 'P'], ['G', 'R', 'B', 'P']]) := by
  refine (loopRun_none' (honest ['G', 'R', 'B', 'P']) 7 S0 []).trans ?_
  refine (loopRun_step ['G', 'R', 'B', 'P'] 7 6 ['B', 'G', 'O', 'R'] S0 [] 3 0 E65 ['G', 'O', 'R', 'Y'] [['B', 'G', 'O', 'R']] rfl ((calc_eq_fastP ['G', 'R', 'B', 'P'] ['B', 'G', 'O', 'R'] (by decide) (by decide)).trans (by decide)) (by decide) pe65 rfl nx65 (by decide) (by decide) (by decide)).trans ?_
  refine Eq.trans (step_lift ['B', 'G', 'O', 'R'] (?_ : loopRun (honest ['G', 'R', 'B', 'P']) 6 (some ['G', 'O', 'R', 'Y']) E65 [['B', 'G', 'O', 'R']] = (RunResult.solved ['G', 'R', 'B', 'P'] 4, [['G', 'O', 'R', 'Y'], ['R', 'O', 'B', 'P'], ['G', 'R', 'B', 'P']]))) rfl
  refine (loopRun_step ['G', 'R', 'B', 'P'] 6 5 ['G', 'O', 'R', 'Y'] E65 [['B', 'G', 'O', 'R']] 1 1 E75 ['R', 'O', 'B', 'P'] [['B', 'G', 'O', 'R'], ['G', 'O', 'R', 'Y']] rfl ((calc_eq_fastP ['G', 'R', 'B', 'P'] ['G', 'O', 'R', 'Y'] (by decide) (by decide)).trans (by decide)) (by decide) pe75 rfl nx75 (by decide) (by decide) (by decide)).trans ?_
  refine Eq.trans (step_lift ['G', 'O', 'R', 'Y'] (?_ : loopRun (honest ['G', 'R', 'B', 'P']) 5 (some ['R', 'O', 'B', 'P']) E75 [['B', 'G', 'O', 'R'], ['G', 'O', 'R', 'Y']] = (RunResult.solved ['G', 'R', 'B', 'P'] 4, [['R', 'O', 'B', 'P'], ['G', 'R', 'B', 'P']]))) rfl
  refine (loopRun_step ['G', 'R', 'B', 'P'] 5 4 ['R', 'O', 'B', 'P'] E75 [['B', 'G', 'O', 'R'], ['G', 'O', 'R', 'Y']] 1 2 E91 ['G', 'R', 'B', 'P'] [['B', 'G', 'O', 'R'], ['G', 'O', 'R', 'Y'], ['R', 'O', 'B', 'P']] rfl ((calc_eq_fastP ['G', 'R', 'B', 'P'] ['R', 'O', 'B', 'P'] (by decide) (by decide)).trans (by decide)) (by decide) pe91 rfl nx91 (by decide) (by decide) (by decide)).trans ?_
  refine Eq.trans (step_lift ['R', 'O', 'B', 'P'] (?_ : loopRun (honest ['G', 'R', 'B', 'P']) 4 (some ['G', 'R', 'B', 'P']) E91 [['B', 'G', 'O', 'R'], ['G', 'O', 'R', 'Y'], ['R', 'O', 'B', 'P']] = (RunResult.solved ['G', 'R', 'B', 'P'] 4, [['G', 'R', 'B', 'P']]))) rfl
  exact loopRun_last ['G', 'R', 'B', 'P'] 4 3 E91 [['B', 'G', 'O', 'R'], ['G', 'O', 'R', 'Y'], ['R', 'O', 'B', 'P']] rfl rfl (by decide)

lemma rs87 : loopRun (honest ['G', 'R', 'O', 'B']) 7 none S0 [] =
    (RunResult.solved ['G', 'R', 'O', 'B'] 3, [['B', 'G', 'O', 'R'], ['B', 'O', 'R', 'G'], ['G', 'R', 'O', 'B']]) := by
  refine (loopRun_none' (honest ['G', 'R', 'O', 'B']) 7 S0 []).trans ?_
  refine (loopRun_step ['G', 'R', 'O', 'B'] 7 6 ['B', 'G', 'O', 'R'] S0 [] 3 1 E16 ['B', 'O', 'R', 'G'] [['B', 'G', 'O', 'R']] rfl ((calc_eq_fastP ['G', 'R', 'O', 'B'] ['B', 'G', 'O', 'R'] (by decide) (by decide)).trans (by decide)) (by decide) pe16 rfl nx16 (by decide) (by decide) (by decide)).trans ?_
  refine Eq.trans (step_lift ['B', 'G', 'O', 'R'] (?_ : loopRun (honest ['G', 'R', 'O', 'B']) 6 (some ['B', 'O', 'R', 'G']) E16 [['B', 'G', 'O', 'R']] = (RunResult.solved ['G', 'R', 'O', 'B'] 3, [['B', 'O', 'R', 'G'], ['G', 'R', 'O', 'B']]))) rfl
  refine (loopRun_step ['G', 'R', 'O', 'B'] 6 5 ['B', 'O', 'R', 'G'] E16 [['B', 'G', 'O', 'R']] 4 0 E92 ['G', 'R', 'O', 'B'] [['B', 'G', 'O', 'R'], ['B', 'O', 'R', 'G']] rfl ((calc_eq_fastP ['G', 'R', 'O', 'B'] ['B', 'O', 'R', 'G'] (by decide) (by decide)).trans (by decide)) (by decide) pe92 rfl nx92 (by decide) (by decide) (by decide)).trans ?_
  refine Eq.trans (step_lift ['B', 'O', 'R', 'G'] (?_ : loopRun (honest ['G', 'R', 'O', 'B']) 5 (some ['G', 'R', 'O', 'B']) E92 [['B', 'G', 'O', 'R'], ['B', 'O', 'R', 'G']] = (RunResult.solved ['G', 'R', 'O', 'B'] 3, [['G', 'R', 'O', 'B']]))) rfl
  exact loopRun_last ['G', 'R', 'O', 'B'] 5 4 E92 [['B', 'G', 'O', 'R'], ['B', 'O', 'R', 'G']] rfl rfl (by decide)

lemma rs88 : loopRun (honest ['G', 'R', 'O', 'Y']) 7 none S0 [] =
    (RunResult.solved ['G', 'R', 'O', 'Y'] 3, [['B', 'G', 'O', 'R'], ['B', 'O', 'R', 'Y'], ['G', 'R', 'O', 'Y']]) := by
  refine (loopRun_none' (honest ['G', 'R', 'O', 'Y']) 7 S0 []).trans ?_
  refine (loopRun_step ['G', 'R', 'O', 'Y'] 7 6 ['B', 'G', 'O', 'R'] S0 [] 2 1 E13 ['B', 'O', 'R', 'Y'] [['B', 'G', 'O', 'R']] rfl ((calc_eq_fastP ['G', 'R', 'O', 'Y'] ['B', 'G', 'O', 'R'] (by decide) (by decide)).trans (by decide)) (by decide) pe13 rfl nx13 (by decide) (by decide) (by decide)).trans ?_
  refine Eq.trans (step_lift ['B', 'G', 'O', 'R'] (?_ : loopRun (honest ['G', 'R', 'O', 'Y']) 6 (some ['B', 'O', 'R', 'Y']) E13 [['B', 'G', 'O', 'R']] = (RunResult.solved ['G', 'R', 'O', 'Y'] 3, [['B', 'O', 'R', 'Y'], ['G', 'R', 'O', 'Y']]))) rfl
  refine (loopRun_step ['G', 'R', 'O', 'Y'] 6 5 ['B', 'O', 'R', 'Y'] E13 [['B', 'G', 'O', 'R']] 2 1 E29 ['G', 'R', 'O', 'Y'] [['B', 'G', 'O', 'R'], ['B', 'O', 'R', 'Y']] rfl ((calc_eq_fastP ['G', 'R', 'O', 'Y'] ['B', 'O', 'R', 'Y'] (by decide) (by decide)).trans (by decide)) (by decide) pe29 rfl nx29 (by decide) (by decide) (by decide)).trans ?_
  refine Eq.trans (step_lift ['B', 'O', 'R', 'Y'] (?_ : loopRun (honest ['G', 'R', 'O', 'Y']) 5 (some ['G', 'R', 'O', 'Y']) E29 [['B', 'G', 'O', 'R'], ['B', 'O', 'R', 'Y']] = (RunResult.solved ['G', 'R', 'O', 'Y'] 3, [['G', 'R', 'O', 'Y']]))) rfl
  exact loopRun_last ['G', 'R', 'O', 'Y'] 5 4 E29 [['B', 'G', 'O', 'R'], ['B', 'O', 'R', 'Y']] rfl rfl (by decide)

lemma rs89 : loopRun (honest ['G', 'R', 'O', 'P']) 7 none S0 [] =
    (RunResult.solved ['G', 'R', 'O', 'P'] 4, [['B', 'G', 'O', 'R'], ['B', 'O', 'R', 'Y'], ['G', 'P', 'O', 'B'], ['G', 'R', 'O', 'P']]) := by
  refine (loopRun_none' (honest ['G', 'R', 'O', 'P']) 7 S0 []).trans ?_
  refine (loopRun_step ['G', 'R', 'O', 'P'] 7 6 ['B', 'G', 'O', 'R'] S0 [] 2 1 E13 ['B', 'O', 'R', 'Y'] [['B', 'G', 'O', 'R']] rfl ((calc_eq_fastP ['G', 'R', 'O', 'P'] ['B', 'G', 'O', 'R'] (by decide) (by decide)).trans (by decide)) (by decide) pe13 rfl nx13 (by decide) (by decide) (by decide)).trans ?_
  refine Eq.trans (step_lift ['B', 'G', 'O', 'R'] (?_ : loopRun (honest ['G', 'R', 'O', 'P']) 6 (some ['B', 'O', 'R', 'Y']) E13 [['B', 'G', 'O', 'R']] = (RunResult.solved ['G', 'R', 'O', 'P'] 4, [['B', 'O', 'R', 'Y'], ['G', 'P', 'O', 'B'], ['G', 'R', 'O', 'P']]))) rfl
  refine (loopRun_step ['G', 'R', 'O', 'P'] 6 5 ['B', 'O', 'R', 'Y'] E13 [['B', 'G', 'O', 'R']] 2 0 E62 ['G', 'P', 'O', 'B'] [['B', 'G', 'O', 'R'], ['B', 'O', 'R', 'Y']] rfl ((calc_eq_fastP ['G', 'R', 'O', 'P'] ['B', 'O', 'R', 'Y'] (by decide) (by decide)).trans (by decide)) (by decide) pe62 rfl nx62 (by decide) (by decide) (by decide)).trans ?_
  refine Eq.trans (step_lift ['B', 'O', 'R', 'Y'] (?_ : loopRun (honest ['G', 'R', 'O', 'P']) 5 (some ['G', 'P', 'O', 'B']) E62 [['B', 'G', 'O', 'R'], ['B', 'O', 'R', 'Y']] = (RunResult.solved ['G', 'R', 'O', 'P'] 4, [['G', 'P', 'O', 'B'], ['G', 'R', 'O', 'P']]))) rfl
  refine (loopRun_step ['G', 'R', 'O', 'P'] 5 4 ['G', 'P', 'O', 'B'] E62 [['B', 'G', 'O', 'R'], ['B', 'O', 'R', 'Y']] 1 2 E93 ['G', 'R', 'O', 'P'] [['B', 'G', 'O', 'R'], ['B', 'O', 'R', 'Y'], ['G', 'P', 'O', 'B']] rfl ((calc_eq_fastP ['G', 'R', 'O', 'P'] ['G', 'P', 'O', 'B'] (by decide) (by decide)).trans (by decide)) (by decide) pe93 rfl nx93 (by decide) (by decide) (by decide)).trans ?_
  refine Eq.trans (step_lift ['G', 'P', 'O', 'B'] (?_ : loopRun (honest ['G', 'R', 'O', 'P']) 4 (some ['G', 'R', 'O', 'P']) E93 [['B', 'G', 'O', 'R'], ['B', 'O', 'R', 'Y'], ['G', 'P', 'O', 'B']] = (RunResult.solved ['G', 'R', 'O', 'P'] 4, [['G', 'R', 'O', 'P']]))) rfl
  exact loopRun_last ['G', 'R', 'O', 'P'] 4 3 E93 [['B', 'G', 'O', 'R'], ['B', 'O', 'R', 'Y'], ['G', 'P', 'O', 'B']] rfl rfl (by decide)

lemma rs90 : loopRun (honest ['G', 'R', 'Y', 'B']) 7 none S0 [] =
    (RunResult.solved ['G', 'R', 'Y', 'B'] 4, [['B', 'G', 'O', 'R'], ['G', 'O', 'R', 'Y'], ['G', 'B', 'Y', 'O'], ['G', 'R', 'Y', 'B']]) := by
  refine (loopRun_none' (honest ['G', 'R', 'Y', 'B']) 7 S0 []).trans ?_
  refine (loopRun_step ['G', 'R', 'Y', 'B'] 7 6 ['B', 'G', 'O', 'R'] S0 [] 3 0 E65 ['G', 'O', 'R', 'Y'] [['B', 'G', 'O', 'R']] rfl ((calc_eq_fastP ['G', 'R', 'Y', 'B'] ['B', 'G', 'O', 'R'] (by decide) (by decide)).trans (by decide)) (by decide) pe65 rfl nx65 (by decide) (by decide) (by decide)).trans ?_
  refine Eq.trans (step_lift ['B', 'G', 'O', 'R'] (?_ : loopRun (honest ['G', 'R', 'Y', 'B']) 6 (some ['G', 'O', 'R', 'Y']) E65 [['B', 'G', 'O', 'R']] = (RunResult.solved ['G', 'R', 'Y', 'B'] 4, [['G', 'O', 'R', 'Y'], ['G', 'B', 'Y', 'O'], ['G', 'R', 'Y', 'B']]))) rfl
  refine (loopRun_step ['G', 'R', 'Y', 'B'] 6 5 ['G', 'O', 'R', 'Y'] E65 [['B', 'G', 'O', 'R']] 2 1 E68 ['G', 'B', 'Y', 'O'] [['B', 'G', 'O', 'R'], ['G', 'O', 'R', 'Y']] rfl ((calc_eq_fastP ['G', 'R', 'Y', 'B'] ['G', 'O', 'R', 'Y'] (by decide) (by decide)).trans (by decide)) (by decide) pe68 rfl nx68 (by decide) (by decide) (by decide)).trans ?_
  refine Eq.trans (step_lift ['G', 'O', 'R', 'Y'] (?_ : loopRun (honest ['G', 'R', 'Y', 'B']) 5 (some ['G', 'B', 'Y', 'O']) E68 [['B', 'G', 'O', 'R'], ['G', 'O', 'R', 'Y']] = (RunResult.solved ['G', 'R', 'Y', 'B'] 4, [['G', 'B', 'Y', 'O'], ['G', 'R', 'Y', 'B']]))) rfl
  refine (loopRun_step ['G', 'R', 'Y', 'B'] 5 4 ['G', 'B', 'Y', 'O'] E68 [['B', 'G', 'O', 'R'], ['G', 'O', 'R', 'Y']] 1 2 E94 ['G', 'R', 'Y', 'B'] [['B', 'G', 'O', 'R'], ['G', 'O', 'R', 'Y'], ['G', 'B', 'Y', 'O']] rfl ((calc_eq_fastP ['G', 'R', 'Y', 'B'] ['G', 'B', 'Y', 'O'] (by decide) (by decide)).trans (by decide)) (by decide) pe94 rfl nx94 (by decide) (by decide) (by decide)).trans ?_
  refine Eq.trans (step_lift ['G', 'B', 'Y', 'O'] (?_ : loopRun (honest ['G', 'R', 'Y', 'B']) 4 (some ['G', 'R', 'Y', 'B']) E94 [['B', 'G', 'O', 'R'], ['G', 'O', 'R', 'Y'], ['G', 'B', 'Y', 'O']] = (RunResult.solved ['G', 'R', 'Y', 'B'] 4, [['G', 'R', 'Y', 'B']]))) rfl
  exact loopRun_last ['G', 'R', 'Y', 'B'] 4 3 E94 [['B', 'G', 'O', 'R'], ['G', 'O', 'R', 'Y'], ['G', 'B', 'Y', 'O']] rfl rfl (by decide)

lemma rs91 : loopRun (honest ['G', 'R', 'Y', 'O']) 7 none S0 [] =
    (RunResult.solved ['G', 'R', 'Y', 'O'] 3, [['B', 'G', 'O', 'R'], ['G', 'O', 'R', 'Y'], ['G', 'R', 'Y', 'O']]) := by
  refine (loopRun_none' (honest ['G', 'R', 'Y', 'O']) 7 S0 []).trans ?_
  refine (loopRun_step ['G', 'R', 'Y', 'O'] 7 6 ['B', 'G', 'O', 'R'] S0 [] 3 0 E65 ['G', 'O', 'R', 'Y'] [['B', 'G', 'O', 'R']] rfl ((calc_eq_fastP ['G', 'R', 'Y', 'O'] ['B', 'G', 'O', 'R'] (by decide) (by decide)).trans (by decide)) (by decide) pe65 rfl nx65 (by decide) (by decide) (by decide)).trans ?_
  refine Eq.trans (step_lift ['B', 'G', 'O', 'R'] (?_ : loopRun (honest ['G', 'R', 'Y', 'O']) 6 (some ['G', 'O', 'R', 'Y']) E65 [['B', 'G', 'O', 'R']] = (RunResult.solved ['G', 'R', 'Y', 'O'] 3, [['G', 'O', 'R', 'Y'], ['G', 'R', 'Y', 'O']]))) rfl
  refine (loopRun_step ['G', 'R', 'Y', 'O'] 6 5 ['G', 'O', 'R', 'Y'] E65 [['B', 'G', 'O', 'R']] 3 1 E95 ['G', 'R', 'Y', 'O'] [['B', 'G', 'O', 'R'], ['G', 'O', 'R', 'Y']] rfl ((calc_eq_fastP ['G', 'R', 'Y', 'O'] ['G', 'O', 'R', 'Y'] (by decide) (by decide)).trans (by decide)) (by decide) pe95 rfl nx95 (by decide) (by decide) (by decide)).trans ?_
  refine Eq.trans (step_lift ['G', 'O', 'R', 'Y'] (?_ : loopRun (honest ['G', 'R', 'Y', 'O']) 5 (some ['G', 'R', 'Y', 'O']) E95 [['B', 'G', 'O', 'R'], ['G', 'O', 'R', 'Y']] = (RunResult.solved ['G', 'R', 'Y', 'O'] 3, [['G', 'R', 'Y', 'O']]))) rfl
  exact loopRun_last ['G', 'R', 'Y', 'O'] 5 4 E95 [['B', 'G', 'O', 'R'], ['G', 'O', 'R', 'Y']] rfl rfl (by decide)

lemma rs92 : loopRun (honest ['G', 'R', 'Y', 'P']) 7 none S0 [] =
    (RunResult.solved ['G', 'R', 'Y', 'P'] 3, [['B', 'G', 'O', 'R'], ['G', 'Y', 'R', 'P'], ['G', 'R', 'Y', 'P']]) := by
  refine (loopRun_none' (honest ['G', 'R', 'Y', 'P']) 7 S0 []).trans ?_
  refine (loopRun_step ['G', 'R', 'Y', 'P'] 7 6 ['B', 'G', 'O', 'R'] S0 [] 2 0 E72 ['G', 'Y', 'R', 'P'] [['B', 'G', 'O', 'R']] rfl ((calc_eq_fastP ['G', 'R', 'Y', 'P'] ['B', 'G', 'O', 'R'] (by decide) (by decide)).trans (by decide)) (by decide) pe72 rfl nx72 (by decide) (by decide) (by decide)).trans ?_
  refine Eq.trans (step_lift ['B', 'G', 'O', 'R'] (?_ : loopRun (honest ['G', 'R', 'Y', 'P']) 6 (some ['G', 'Y', 'R', 'P']) E72 [['B', 'G', 'O', 'R']] = (RunResult.solved ['G', 'R', 'Y', 'P'] 3, [['G', 'Y', 'R', 'P'], ['G', 'R', 'Y', 'P']]))) rfl
  refine (loopRun_step ['G', 'R', 'Y', 'P'] 6 5 ['G', 'Y', 'R', 'P'] E72 [['B', 'G', 'O', 'R']] 2 2 E96 ['G', 'R', 'Y', 'P'] [['B', 'G', 'O', 'R'], ['G', 'Y', 'R', 'P']] rfl ((calc_eq_fastP ['G', 'R', 'Y', 'P'] ['G', 'Y', 'R', 'P'] (by decide) (by decide)).trans (by decide)) (by decide) pe96 rfl nx96 (by decide) (by decide) (by decide)).trans ?_
  refine Eq.trans (step_lift ['G', 'Y', 'R', 'P'] (?_ : loopRun (honest ['G', 'R', 'Y', 'P']) 5 (some ['G', 'R', 'Y', 'P']) E96 [['B', 'G', 'O', 'R'], ['G', 'Y', 'R', 'P']] = (RunResult.solved ['G', 'R', 'Y', 'P'] 3, [['G', 'R', 'Y', 'P']]))) rfl
  exact loopRun_last ['G', 'R', 'Y', 'P'] 5 4 E96 [['B', 'G', 'O', 'R'], ['G', 'Y', 'R', 'P']] rfl rfl (by decide)

lemma rs93 : loopRun (honest ['G', 'R', 'P', 'B']) 7 none S0 [] =
    (RunResult.solved ['G', 'R', 'P', 'B'] 5, [['B', 'G', 'O', 'R'], ['G', 'O', 'R', 'Y'], ['R', 'O', 'B', 'P'], ['G', 'B', 'P', 'O'], ['G', 'R', 'P', 'B']]) := by
  refine (loopRun_none' (honest ['G', 'R', 'P', 'B']) 7 S0 []).trans ?_
  refine (loopRun_step ['G', 'R', 'P', 'B'] 7 6 ['B', 'G', 'O', 'R'] S0 [] 3 0 E65 ['G', 'O', 'R', 'Y'] [['B', 'G', 'O', 'R']] rfl ((calc_eq_fastP ['G', 'R', 'P', 'B'] ['B', 'G', 'O', 'R'] (by decide) (by decide)).trans (by decide)) (by decide) pe65 rfl nx65 (by decide) (by decide) (by decide)).trans ?_
  refine Eq.trans (step_lift ['B', 'G', 'O', 'R'] (?_ : loopRun (honest ['G', 'R', 'P', 'B']) 6 (some ['G', 'O', 'R', 'Y']) E65 [['B', 'G', 'O', 'R']] = (RunResult.solved ['G', 'R', 'P', 'B'] 5, [['G', 'O', 'R', 'Y'], ['R', 'O', 'B', 'P'], ['G', 'B', 'P', 'O'], ['G', 'R', 'P', 'B']]))) rfl
  refine (loopRun_step ['G', 'R', 'P', 'B'] 6 5 ['G', 'O', 'R', 'Y'] E65 [['B', 'G', 'O', 'R']] 1 1 E75 ['R', 'O', 'B', 'P'] [['B', 'G', 'O', 'R'], ['G', 'O', 'R', 'Y']] rfl ((calc_eq_fastP ['G', 'R', 'P', 'B'] ['G', 'O', 'R', 'Y'] (by decide) (by decide)).trans (by decide)) (by decide) pe75 rfl nx75 (by decide) (by decide) (by decide)).trans ?_
  refine Eq.trans (step_lift ['G', 'O', 'R', 'Y'] (?_ : loopRun (honest ['G', 'R', 'P', 'B']) 5 (some ['R', 'O', 'B', 'P']) E75 [['B', 'G', 'O', 'R'], ['G', 'O', 'R', 'Y']] = (RunResult.solved ['G', 'R', 'P', 'B'] 5, [['R', 'O', 'B', 'P'], ['G', 'B', 'P', 'O'], ['G', 'R', 'P', 'B']]))) rfl
  refine (loopRun_step ['G', 'R', 'P', 'B'] 5 4 ['R', 'O', 'B', 'P'] E75 [['B', 'G', 'O', 'R'], ['G', 'O', 'R', 'Y']] 3 0 E76 ['G', 'B', 'P', 'O'] [['B', 'G', 'O', 'R'], ['G', 'O', 'R', 'Y'], ['R', 'O', 'B', 'P']] rfl ((calc_eq_fastP ['G', 'R', 'P', 'B'] ['R', 'O', 'B', 'P'] (by decide) (by decide)).trans (by decide)) (by decide) pe76 rfl nx76 (by decide) (by decide) (by decide)).trans ?_
  refine Eq.trans (step_lift ['R', 'O', 'B', 'P'] (?_ : loopRun (honest ['G', 'R', 'P', 'B']) 4 (some ['G', 'B', 'P', 'O']) E76 [['B', 'G', 'O', 'R'], ['G', 'O', 'R', 'Y'], ['R', 'O', 'B', 'P']] = (RunResult.solved ['G', 'R', 'P', 'B'] 5, [['G', 'B', 'P', 'O'], ['G', 'R', 'P', 'B']]))) rfl
  refine (loopRun_step ['G', 'R', 'P', 'B'] 4 3 ['G', 'B', 'P', 'O'] E76 [['B', 'G', 'O', 'R'], ['G', 'O', 'R', 'Y'], ['R', 'O', 'B', 'P']] 1 2 [['G', 'R', 'P', 'B']] ['G', 'R', 'P', 'B'] [['B', 'G', 'O', 'R'], ['G', 'O', 'R', 'Y'], ['R', 'O', 'B', 'P'], ['G', 'B', 'P', 'O']] rfl ((calc_eq_fastP ['G', 'R', 'P', 'B'] ['G', 'B', 'P', 'O'] (by decide) (by decide)).trans (by decide)) (by decide) pe97 rfl (findNextGuess_singleton ['G', 'R', 'P', 'B'] [['B', 'G', 'O', 'R'], ['G', 'O', 'R', 'Y'], ['R', 'O', 'B', 'P'], ['G', 'B', 'P', 'O']]) (by decide) (by decide) (by decide)).trans ?_
  refine Eq.trans (step_lift ['G', 'B', 'P', 'O'] (?_ : loopRun (honest ['G', 'R', 'P', 'B']) 3 (some ['G', 'R', 'P', 'B']) [['G', 'R', 'P', 'B']] [['B', 'G', 'O', 'R'], ['G', 'O', 'R', 'Y'], ['R', 'O', 'B', 'P'], ['G', 'B', 'P', 'O']] = (RunResult.solved ['G', 'R', 'P', 'B'] 5, [['G', 'R', 'P', 'B']]))) rfl
  exact loopRun_last ['G', 'R', 'P', 'B'] 3 2 [['G', 'R', 'P', 'B']] [['B', 'G', 'O', 'R'], ['G', 'O', 'R', 'Y'], ['R', 'O', 'B', 'P'], ['G', 'B', 'P', 'O']] rfl rfl (by decide)

lemma rs94 : loopRun (honest ['G', 'R', 'P', 'O']) 7 none S0 [] =
    (RunResult.solved ['G', 'R', 'P', 'O'] 4, [['B', 'G', 'O', 'R'], ['G', 'O', 'R', 'Y'], ['G', 'B', 'Y', 'O'], ['G', 'R', 'P', 'O']]) := by
  refine (loopRun_none' (honest ['G', 'R', 'P', 'O']) 7 S0 []).trans ?_
  refine (loopRun_step ['G', 'R', 'P', 'O'] 7 6 ['B', 'G', 'O', 'R'] S0 [] 3 0 E65 ['G', 'O', 'R', 'Y'] [['B', 'G', 'O', 'R']] rfl ((calc_eq_fastP ['G', 'R', 'P', 'O'] ['B', 'G', 'O', 'R'] (by decide) (by decide)).trans (by decide)) (by decide) pe65 rfl nx65 (by decide) (by decide) (by decide)).trans ?_
  refine Eq.trans (step_lift ['B', 'G', 'O', 'R'] (?_ : loopRun (honest ['G', 'R', 'P', 'O']) 6 (some ['G', 'O', 'R', 'Y']) E65 [['B', 'G', 'O', 'R']] = (RunResult.solved ['G', 'R', 'P', 'O'] 4, [['G', 'O', 'R', 'Y'], ['G', 'B', 'Y', 'O'], ['G', 'R', 'P', 'O']]))) rfl
  refine (loopRun_step ['G', 'R', 'P', 'O'] 6 5 ['G', 'O', 'R', 'Y'] E65 [['B', 'G', 'O', 'R']] 2 1 E68 ['G', 'B', 'Y', 'O'] [['B', 'G', 'O', 'R'], ['G', 'O', 'R', 'Y']] rfl ((calc_eq_fastP ['G', 'R', 'P', 'O'] ['G', 'O', 'R', 'Y'] (by decide) (by decide)).trans (by decide)) (by decide) pe68 rfl nx68 (by decide) (by decide) (by decide)).trans ?_
  refine Eq.trans (step_lift ['G', 'O', 'R', 'Y'] (?_ : loopRun (honest ['G', 'R', 'P', 'O']) 5 (some ['G', 'B', 'Y', 'O']) E68 [['B', 'G', 'O', 'R'], ['G', 'O', 'R', 'Y']] = (RunResult.solved ['G', 'R', 'P', 'O'] 4, [['G', 'B', 'Y', 'O'], ['G', 'R', 'P', 'O']]))) rfl
  refine (loopRun_step ['G', 'R', 'P', 'O'] 5 4 ['G', 'B', 'Y', 'O'] E68 [['B', 'G', 'O', 'R'], ['G', 'O', 'R', 'Y']] 0 2 [['G', 'R', 'P', 'O']] ['G', 'R', 'P', 'O'] [['B', 'G', 'O', 'R'], ['G', 'O', 'R', 'Y'], ['G', 'B', 'Y', 'O']] rfl ((calc_eq_fastP ['G', 'R', 'P', 'O'] ['G', 'B', 'Y', 'O'] (by decide) (by decide)).trans (by decide)) (by decide) pe98 rfl (findNextGuess_singleton ['G', 'R', 'P', 'O'] [['B', 'G', 'O', 'R'], ['G', 'O', 'R', 'Y'], ['G', 'B', 'Y', 'O']]) (by decide) (by decide) (by decide)).trans ?_
  refine Eq.trans (step_lift ['G', 'B', 'Y', 'O'] (?_ : loopRun (honest ['G', 'R', 'P', 'O']) 4 (some ['G', 'R', 'P', 'O']) [['G', 'R', 'P', 'O']] [['B', 'G', 'O', 'R'], ['G', 'O', 'R', 'Y'], ['G', 'B', 'Y', 'O']] = (RunResult.solved ['G', 'R', 'P', 'O'] 4, [['G', 'R', 'P', 'O']]))) rfl
  exact loopRun_last ['G', 'R', 'P', 'O'] 4 3 [['G', 'R', 'P', 'O']] [['B', 'G', 'O', 'R'], ['G', 'O', 'R', 'Y'], ['G', 'B', 'Y', 'O']] rfl rfl (by decide)

lemma rs95 : loopRun (honest ['G', 'R', 'P', 'Y']) 7 none S0 [] =
    (RunResult.solved ['G', 'R', 'P', 'Y'] 3, [['B', 'G', 'O', 'R'], ['G', 'Y', 'R', 'P'], ['G', 'R', 'P', 'Y']]) := by
  refine (loopRun_none' (honest ['G', 'R', 'P', 'Y']) 7 S0 []).trans ?_
  refine (loopRun_step ['G', 'R', 'P', 'Y'] 7 6 ['B', 'G', 'O', 'R'] S0 [] 2 0 E72 ['G', 'Y', 'R', 'P'] [['B', 'G', 'O', 'R']] rfl ((calc_eq_fastP ['G', 'R', 'P', 'Y'] ['B', 'G', 'O', 'R'] (by decide) (by decide)).trans (by decide)) (by decide) pe72 rfl nx72 (by decide) (by decide) (by decide)).trans ?_
  refine Eq.trans (step_lift ['B', 'G', 'O', 'R'] (?_ : loopRun (honest ['G', 'R', 'P', 'Y']) 6 (some ['G', 'Y', 'R', 'P']) E72 [['B', 'G', 'O', 'R']] = (RunResult.solved ['G', 'R', 'P', 'Y'] 3, [['G', 'Y', 'R', 'P'], ['G', 'R', 'P', 'Y']]))) rfl
  refine (loopRun_step ['G', 'R', 'P', 'Y'] 6 5 ['G', 'Y', 'R', 'P'] E72 [['B', 'G', 'O', 'R']] 3 1 E99 ['G', 'R', 'P', 'Y'] [['B', 'G', 'O', 'R'], ['G', 'Y', 'R', 'P']] rfl ((calc_eq_fastP ['G', 'R', 'P', 'Y'] ['G', 'Y', 'R', 'P'] (by decide) (by decide)).trans (by decide)) (by decide) pe99 rfl nx99 (by decide) (by decide) (by decide)).trans ?_
  refine Eq.trans (step_lift ['G', 'Y', 'R', 'P'] (?_ : loopRun (honest ['G', 'R', 'P', 'Y']) 5 (some ['G', 'R', 'P', 'Y']) E99 [['B', 'G', 'O', 'R'], ['G', 'Y', 'R', 'P']] = (RunResult.solved ['G', 'R', 'P', 'Y'] 3, [['G', 'R', 'P', 'Y']]))) rfl
  exact loopRun_last ['G', 'R', 'P', 'Y'] 5 4 E99 [['B', 'G', 'O', 'R'], ['G', 'Y', 'R', 'P']] rfl rfl (by decide)

lemma rs96 : loopRun (honest ['G', 'Y', 'B', 'O']) 7 none S0 [] =
    (RunResult.solved ['G', 'Y', 'B', 'O'] 4, [['B', 'G', 'O', 'R'], ['G', 'O', 'R', 'Y'], ['G', 'B', 'Y', 'O'], ['G', 'Y', 'B', 'O']]) := by
  refine (loopRun_none' (honest ['G', 'Y', 'B', 'O']) 7 S0 []).trans ?_
  refine (loopRun_step ['G', 'Y', 'B', 'O'] 7 6 ['B', 'G', 'O', 'R'] S0 [] 3 0 E65 ['G', 'O', 'R', 'Y'] [['B', 'G', 'O', 'R']] rfl ((calc_eq_fastP ['G', 'Y', 'B', 'O'] ['B', 'G', 'O', 'R'] (by decide) (by decide)).trans (by decide)) (by decide) pe65 rfl nx65 (by decide) (by decide) (by decide)).trans ?_
  refine Eq.trans (step_lift ['B', 'G', 'O', 'R'] (?_ : loopRun (honest ['G', 'Y', 'B', 'O']) 6 (some ['G', 'O', 'R', 'Y']) E65 [['B', 'G', 'O', 'R']] = (RunResult.solved ['G', 'Y', 'B', 'O'] 4, [['G', 'O', 'R', 'Y'], ['G', 'B', 'Y', 'O'], ['G', 'Y', 'B', 'O']]))) rfl
  refine (loopRun_step ['G', 'Y', 'B', 'O'] 6 5 ['G', 'O', 'R', 'Y'] E65 [['B', 'G', 'O', 'R']] 2 1 E68 ['G', 'B', 'Y', 'O'] [['B', 'G', 'O', 'R'], ['G', 'O', 'R', 'Y']] rfl ((calc_eq_fastP ['G', 'Y', 'B', 'O'] ['G', 'O', 'R', 'Y'] (by decide) (by decide)).trans (by decide)) (by decide) pe68 rfl nx68 (by decide) (by decide) (by decide)).trans ?_
  refine Eq.trans (step_lift ['G', 'O', 'R', 'Y'] (?_ : loopRun (honest ['G', 'Y', 'B', 'O']) 5 (some ['G', 'B', 'Y', 'O']) E68 [['B', 'G', 'O', 'R'], ['G', 'O', 'R', 'Y']] = (RunResult.solved ['G', 'Y', 'B', 'O'] 4, [['G', 'B', 'Y', 'O'], ['G', 'Y', 'B', 'O']]))) rfl
  refine (loopRun_step ['G', 'Y', 'B', 'O'] 5 4 ['G', 'B', 'Y', 'O'] E68 [['B', 'G', 'O', 'R'], ['G', 'O', 'R', 'Y']] 2 2 [['G', 'Y', 'B', 'O']] ['G', 'Y', 'B', 'O'] [['B', 'G', 'O', 'R'], ['G', 'O', 'R', 'Y'], ['G', 'B', 'Y', 'O']] rfl ((calc_eq_fastP ['G', 'Y', 'B', 'O'] ['G', 'B', 'Y', 'O'] (by decide) (by decide)).trans (by decide)) (by decide) pe100 rfl (findNextGuess_singleton ['G', 'Y', 'B', 'O'] [['B', 'G', 'O', 'R'], ['G', 'O', 'R', 'Y'], ['G', 'B', 'Y', 'O']]) (by decide) (by decide) (by decide)).trans ?_
  refine Eq.trans (step_lift ['G', 'B', 'Y', 'O'] (?_ : loopRun (honest ['G', 'Y', 'B', 'O']) 4 (some ['G', 'Y', 'B', 'O']) [['G', 'Y', 'B', 'O']] [['B', 'G', 'O', 'R'], ['G', 'O', 'R', 'Y'], ['G', 'B', 'Y', 'O']] = (RunResult.solved ['G', 'Y', 'B', 'O'] 4, [['G', 'Y', 'B', 'O']]))) rfl
  exact loopRun_last ['G', 'Y', 'B', 'O'] 4 3 [['G', 'Y', 'B', 'O']] [['B', 'G', 'O', 'R'], ['G', 'O', 'R', 'Y'], ['G', 'B', 'Y', 'O']] rfl rfl (by decide)

lemma rs97 : loopRun (honest ['G', 'Y', 'B', 'R']) 7 none S0 [] =
    (RunResult.solved ['G', 'Y', 'B', 'R'] 4, [['B', 'G', 'O', 'R'], ['B', 'O', 'R', 'Y'], ['O', 'Y', 'G', 'R'], ['G', 'Y', 'B', 'R']]) := by
  refine (loopRun_none' (honest ['G', 'Y', 'B', 'R']) 7 S0 []).trans ?_
  refine (loopRun_step ['G', 'Y', 'B', 'R'] 7 6 ['B', 'G', 'O', 'R'] S0 [] 2 1 E13 ['B', 'O', 'R', 'Y'] [['B', 'G', 'O', 'R']] rfl ((calc_eq_fastP ['G', 'Y', 'B', 'R'] ['B', 'G', 'O', 'R'] (by decide) (by decide)).trans (by decide)) (by decide) pe13 rfl nx13 (by decide) (by decide) (by decide)).trans ?_
  refine Eq.trans (step_lift ['B', 'G', 'O', 'R'] (?_ : loopRun (honest ['G', 'Y', 'B', 'R']) 6 (some ['B', 'O', 'R', 'Y']) E13 [['B', 'G', 'O', 'R']] = (RunResult.solved ['G', 'Y', 'B', 'R'] 4, [['B', 'O', 'R', 'Y'], ['O', 'Y', 'G', 'R'], ['G', 'Y', 'B', 'R']]))) rfl
  refine (loopRun_step ['G', 'Y', 'B', 'R'] 6 5 ['B', 'O', 'R', 'Y'] E13 [['B', 'G', 'O', 'R']] 3 0 E69 ['O', 'Y', 'G', 'R'] [['B', 'G', 'O', 'R'], ['B', 'O', 'R', 'Y']] rfl ((calc_eq_fastP ['G', 'Y', 'B', 'R'] ['B', 'O', 'R', 'Y'] (by decide) (by decide)).trans (by decide)) (by decide) pe69 rfl nx69 (by decide) (by decide) (by decide)).trans ?_
  refine Eq.trans (step_lift ['B', 'O', 'R', 'Y'] (?_ : loopRun (honest ['G', 'Y', 'B', 'R']) 5 (some ['O', 'Y', 'G', 'R']) E69 [['B', 'G', 'O', 'R'], ['B', 'O', 'R', 'Y']] = (RunResult.solved ['G', 'Y', 'B', 'R'] 4, [['O', 'Y', 'G', 'R'], ['G', 'Y', 'B', 'R']]))) rfl
  refine (loopRun_step ['G', 'Y', 'B', 'R'] 5 4 ['O', 'Y', 'G', 'R'] E69 [['B', 'G', 'O', 'R'], ['B', 'O', 'R', 'Y']] 1 2 E101 ['G', 'Y', 'B', 'R'] [['B', 'G', 'O', 'R'], ['B', 'O', 'R', 'Y'], ['O', 'Y', 'G', 'R']] rfl ((calc_eq_fastP ['G', 'Y', 'B', 'R'] ['O', 'Y', 'G', 'R'] (by decide) (by decide)).trans (by decide)) (by decide) pe101 rfl nx101 (by decide) (by decide) (by decide)).trans ?_
  refine Eq.trans (step_lift ['O', 'Y', 'G', 'R'] (?_ : loopRun (honest ['G', 'Y', 'B', 'R']) 4 (some ['G', 'Y', 'B', 'R']) E101 [['B', 'G', 'O', 'R'], ['B', 'O', 'R', 'Y'], ['O', 'Y', 'G', 'R']] = (RunResult.solved ['G', 'Y', 'B', 'R'] 4, [['G', 'Y', 'B', 'R']]))) rfl
  exact loopRun_last ['G', 'Y', 'B', 'R'] 4 3 E101 [['B', 'G', 'O', 'R'], ['B', 'O', 'R', 'Y'], ['O', 'Y', 'G', 'R']] rfl rfl (by decide)

lemma rs98 : loopRun (honest ['G', 'Y', 'B', 'P']) 7 none S0 [] =
    (RunResult.solved ['G', 'Y', 'B', 'P'] 3, [['B', 'G', 'O', 'R'], ['G', 'Y', 'R', 'P'], ['G', 'Y', 'B', 'P']]) := by
  refine (loopRun_none' (honest ['G', 'Y', 'B', 'P']) 7 S0 []).trans ?_
  refine (loopRun_step ['G', 'Y', 'B', 'P'] 7 6 ['B', 'G', 'O', 'R'] S0 [] 2 0 E72 ['G', 'Y', 'R', 'P'] [['B', 'G', 'O', 'R']] rfl ((calc_eq_fastP ['G', 'Y', 'B', 'P'] ['B', 'G', 'O', 'R'] (by decide) (by decide)).trans (by decide)) (by decide) pe72 rfl nx72 (by decide) (by decide) (by decide)).trans ?_
  refine Eq.trans (step_lift ['B', 'G', 'O', 'R'] (?_ : loopRun (honest ['G', 'Y', 'B', 'P']) 6 (some ['G', 'Y', 'R', 'P']) E72 [['B', 'G', 'O', 'R']] = (RunResult.solved ['G', 'Y', 'B', 'P'] 3, [['G', 'Y', 'R', 'P'], ['G', 'Y', 'B', 'P']]))) rfl
  refine (loopRun_step ['G', 'Y', 'B', 'P'] 6 5 ['G', 'Y', 'R', 'P'] E72 [['B', 'G', 'O', 'R']] 0 3 E102 ['G', 'Y', 'B', 'P'] [['B', 'G', 'O', 'R'], ['G', 'Y', 'R', 'P']] rfl ((calc_eq_fastP ['G', 'Y', 'B', 'P'] ['G', 'Y', 'R', 'P'] (by decide) (by decide)).trans (by decide)) (by decide) pe102 rfl nx102 (by decide) (by decide) (by decide)).trans ?_
  refine Eq.trans (step_lift ['G', 'Y', 'R', 'P'] (?_ : loopRun (honest ['G', 'Y', 'B', 'P']) 5 (some ['G', 'Y', 'B', 'P']) E102 [['B', 'G', 'O', 'R'], ['G', 'Y', 'R', 'P']] = (RunResult.solved ['G', 'Y', 'B', 'P'] 3, [['G', 'Y', 'B', 'P']]))) rfl
  exact loopRun_last ['G', 'Y', 'B', 'P'] 5 4 E102 [['B', 'G', 'O', 'R'], ['G', 'Y', 'R', 'P']] rfl rfl (by decide)

lemma rs99 : loopRun (honest ['G', 'Y', 'O', 'B']) 7 none S0 [] =
    (RunResult.solved ['G', 'Y', 'O', 'B'] 4, [['B', 'G', 'O', 'R'], ['B', 'O', 'R', 'Y'], ['O', 'Y', 'G', 'R'], ['G', 'Y', 'O', 'B']]) := by
  refine (loopRun_none' (honest ['G', 'Y', 'O', 'B']) 7 S0 []).trans ?_
  refine (loopRun_step ['G', 'Y', 'O', 'B'] 7 6 ['B', 'G', 'O', 'R'] S0 [] 2 1 E13 ['B', 'O', 'R', 'Y'] [['B', 'G', 'O', 'R']] rfl ((calc_eq_fastP ['G', 'Y', 'O', 'B'] ['B', 'G', 'O', 'R'] (by decide) (by decide)).trans (by decide)) (by decide) pe13 rfl nx13 (by decide) (by decide) (by decide)).trans ?_
  refine Eq.trans (step_lift ['B', 'G', 'O', 'R'] (?_ : loopRun (honest ['G', 'Y', 'O', 'B']) 6 (some ['B', 'O', 'R', 'Y']) E13 [['B', 'G', 'O', 'R']] = (RunResult.solved ['G', 'Y', 'O', 'B'] 4, [['B', 'O', 'R', 'Y'], ['O', 'Y', 'G', 'R'], ['G', 'Y', 'O', 'B']]))) rfl
  refine (loopRun_step ['G', 'Y', 'O', 'B'] 6 5 ['B', 'O', 'R', 'Y'] E13 [['B', 'G', 'O', 'R']] 3 0 E69 ['O', 'Y', 'G', 'R'] [['B', 'G', 'O', 'R'], ['B', 'O', 'R', 'Y']] rfl ((calc_eq_fastP ['G', 'Y', 'O', 'B'] ['B', 'O', 'R', 'Y'] (by decide) (by decide)).trans (by decide)) (by decide) pe69 rfl nx69 (by decide) (by decide) (by decide)).trans ?_
  refine Eq.trans (step_lift ['B', 'O', 'R', 'Y'] (?_ : loopRun (honest ['G', 'Y', 'O', 'B']) 5 (some ['O', 'Y', 'G', 'R']) E69 [['B', 'G', 'O', 'R'], ['B', 'O', 'R', 'Y']] = (RunResult.solved ['G', 'Y', 'O', 'B'] 4, [['O', 'Y', 'G', 'R'], ['G', 'Y', 'O', 'B']]))) rfl
  refine (loopRun_step ['G', 'Y', 'O', 'B'] 5 4 ['O', 'Y', 'G', 'R'] E69 [['B', 'G', 'O', 'R'], ['B', 'O', 'R', 'Y']] 2 1 E70 ['G', 'Y', 'O', 'B'] [['B', 'G', 'O', 'R'], ['B', 'O', 'R', 'Y'], ['O', 'Y', 'G', 'R']] rfl ((calc_eq_fastP ['G', 'Y', 'O', 'B'] ['O', 'Y', 'G', 'R'] (by decide) (by decide)).trans (by decide)) (by decide) pe70 rfl nx70 (by decide) (by decide) (by decide)).trans ?_
  refine Eq.trans (step_lift ['O', 'Y', 'G', 'R'] (?_ : loopRun (honest ['G', 'Y', 'O', 'B']) 4 (some ['G', 'Y', 'O', 'B']) E70 [['B', 'G', 'O', 'R'], ['B', 'O', 'R', 'Y'], ['O', 'Y', 'G', 'R']] = (RunResult.solved ['G', 'Y', 'O', 'B'] 4, [['G', 'Y', 'O', 'B']]))) rfl
  exact loopRun_last ['G', 'Y', 'O', 'B'] 4 3 E70 [['B', 'G', 'O', 'R'], ['B', 'O', 'R', 'Y'], ['O', 'Y', 'G', 'R']] rfl rfl (by decide)

lemma rs100 : loopRun (honest ['G', 'Y', 'O', 'R']) 7 none S0 [] =
    (RunResult.solved ['G', 'Y', 'O', 'R'] 3, [['B', 'G', 'O', 'R'], ['B', 'G', 'R', 'Y'], ['G', 'Y', 'O', 'R']]) := by
  refine (loopRun_none' (honest ['G', 'Y', 'O', 'R']) 7 S0 []).trans ?_
  refine (loopRun_step ['G', 'Y', 'O', 'R'] 7 6 ['B', 'G', 'O', 'R'] S0 [] 1 2 E3 ['B', 'G', 'R', 'Y'] [['B', 'G', 'O', 'R']] rfl ((calc_eq_fastP ['G', 'Y', 'O', 'R'] ['B', 'G', 'O', 'R'] (by decide) (by decide)).trans (by decide)) (by decide) pe3 rfl nx3 (by decide) (by decide) (by decide)).trans ?_
  refine Eq.trans (step_lift ['B', 'G', 'O', 'R'] (?_ : loopRun (honest ['G', 'Y', 'O', 'R']) 6 (some ['B', 'G', 'R', 'Y']) E3 [['B', 'G', 'O', 'R']] = (RunResult.solved ['G', 'Y', 'O', 'R'] 3, [['B', 'G', 'R', 'Y'], ['G', 'Y', 'O', 'R']]))) rfl
  refine (loopRun_step ['G', 'Y', 'O', 'R'] 6 5 ['B', 'G', 'R', 'Y'] E3 [['B', 'G', 'O', 'R']] 3 0 E103 ['G', 'Y', 'O', 'R'] [['B', 'G', 'O', 'R'], ['B', 'G', 'R', 'Y']] rfl ((calc_eq_fastP ['G', 'Y', 'O', 'R'] ['B', 'G', 'R', 'Y'] (by decide) (by decide)).trans (by decide)) (by decide) pe103 rfl nx103 (by decide) (by decide) (by decide)).trans ?_
  refine Eq.trans (step_lift ['B', 'G', 'R', 'Y'] (?_ : loopRun (honest ['G', 'Y', 'O', 'R']) 5 (some ['G', 'Y', 'O', 'R']) E103 [['B', 'G', 'O', 'R'], ['B', 'G', 'R', 'Y']] = (RunResult.solved ['G', 'Y', 'O', 'R'] 3, [['G', 'Y', 'O', 'R']]))) rfl
  exact loopRun_last ['G', 'Y', 'O', 'R'] 5 4 E103 [['B', 'G', 'O', 'R'], ['B', 'G', 'R', 'Y']] rfl rfl (by decide)

lemma rs101 : loopRun (honest ['G', 'Y', 'O', 'P']) 7 none S0 [] =
    (RunResult.solved ['G', 'Y', 'O', 'P'] 5, [['B', 'G', 'O', 'R'], ['B', 'O', 'Y', 'P'], ['B', 'Y', 'P', 'G'], ['B', 'P', 'R', 'Y'], ['G', 'Y', 'O', 'P']]) := by
  refine (loopRun_none' (honest ['G', 'Y', 'O', 'P']) 7 S0 []).trans ?_
  refine (loopRun_step ['G', 'Y', 'O', 'P'] 7 6 ['B', 'G', 'O', 'R'] S0 [] 1 1 E20 ['B', 'O', 'Y', 'P'] [['B', 'G', 'O', 'R']] rfl ((calc_eq_fastP ['G', 'Y', 'O', 'P'] ['B', 'G', 'O', 'R'] (by decide) (by decide)).trans (by decide)) (by decide) pe20 rfl nx20 (by decide) (by decide) (by decide)).trans ?_
  refine Eq.trans (step_lift ['B', 'G', 'O', 'R'] (?_ : loopRun (honest ['G', 'Y', 'O', 'P']) 6 (some ['B', 'O', 'Y', 'P']) E20 [['B', 'G', 'O', 'R']] = (RunResult.solved ['G', 'Y', 'O', 'P'] 5, [['B', 'O', 'Y', 'P'], ['B', 'Y', 'P', 'G'], ['B', 'P', 'R', 'Y'], ['G', 'Y', 'O', 'P']]))) rfl
  refine (loopRun_step ['G', 'Y', 'O', 'P'] 6 5 ['B', 'O', 'Y', 'P'] E20 [['B', 'G', 'O', 'R']] 2 1 E35 ['B', 'Y', 'P', 'G'] [['B', 'G', 'O', 'R'], ['B', 'O', 'Y', 'P']] rfl ((calc_eq_fastP ['G', 'Y', 'O', 'P'] ['B', 'O', 'Y', 'P'] (by decide) (by decide)).trans (by decide)) (by decide) pe35 rfl nx35 (by decide) (by decide) (by decide)).trans ?_
  refine Eq.trans (step_lift ['B', 'O', 'Y', 'P'] (?_ : loopRun (honest ['G', 'Y', 'O', 'P']) 5 (some ['B', 'Y', 'P', 'G']) E35 [['B', 'G', 'O', 'R'], ['B', 'O', 'Y', 'P']] = (RunResult.solved ['G', 'Y', 'O', 'P'] 5, [['B', 'Y', 'P', 'G'], ['B', 'P', 'R', 'Y'], ['G', 'Y', 'O', 'P']]))) rfl
  refine (loopRun_step ['G', 'Y', 'O', 'P'] 5 4 ['B', 'Y', 'P', 'G'] E35 [['B', 'G', 'O', 'R'], ['B', 'O', 'Y', 'P']] 2 1 E56 ['B', 'P', 'R', 'Y'] [['B', 'G', 'O', 'R'], ['B', 'O', 'Y', 'P'], ['B', 'Y', 'P', 'G']] rfl ((calc_eq_fastP ['G', 'Y', 'O', 'P'] ['B', 'Y', 'P', 'G'] (by decide) (by decide)).trans (by decide)) (by decide) pe56 rfl nx56 (by decide) (by decide) (by decide)).trans ?_
  refine Eq.trans (step_lift ['B', 'Y', 'P', 'G'] (?_ : loopRun (honest ['G', 'Y', 'O', 'P']) 4 (some ['B', 'P', 'R', 'Y']) E56 [['B', 'G', 'O', 'R'], ['B', 'O', 'Y', 'P'], ['B', 'Y', 'P', 'G']] = (RunResult.solved ['G', 'Y', 'O', 'P'] 5, [['B', 'P', 'R', 'Y'], ['G', 'Y', 'O', 'P']]))) rfl
  refine (loopRun_step ['G', 'Y', 'O', 'P'] 4 3 ['B', 'P', 'R', 'Y'] E56 [['B', 'G', 'O', 'R'], ['B', 'O', 'Y', 'P'], ['B', 'Y', 'P', 'G']] 2 0 [['G', 'Y', 'O', 'P']] ['G', 'Y', 'O', 'P'] [['B', 'G', 'O', 'R'], ['B', 'O', 'Y', 'P'], ['B', 'Y', 'P', 'G'], ['B', 'P', 'R', 'Y']] rfl ((calc_eq_fastP ['G', 'Y', 'O', 'P'] ['B', 'P', 'R', 'Y'] (by decide) (by decide)).trans (by decide)) (by decide) pe104 rfl (findNextGuess_singleton ['G', 'Y', 'O', 'P'] [['B', 'G', 'O', 'R'], ['B', 'O', 'Y', 'P'], ['B', 'Y', 'P', 'G'], ['B', 'P', 'R', 'Y']]) (by decide) (by decide) (by decide)).trans ?_
  refine Eq.trans (step_lift ['B', 'P', 'R', 'Y'] (?_ : loopRun (honest ['G', 'Y', 'O', 'P']) 3 (some ['G', 'Y', 'O', 'P']) [['G', 'Y', 'O', 'P']] [['B', 'G', 'O', 'R'], ['B', 'O', 'Y', 'P'], ['B', 'Y', 'P', 'G'], ['B', 'P', 'R', 'Y']] = (RunResult.solved ['G', 'Y', 'O', 'P'] 5, [['G', 'Y', 'O', 'P']]))) rfl
  exact loopRun_last ['G', 'Y', 'O', 'P'] 3 2 [['G', 'Y', 'O', 'P']] [['B', 'G', 'O', 'R'], ['B', 'O', 'Y', 'P'], ['B', 'Y', 'P', 'G'], ['B', 'P', 'R', 'Y']] rfl rfl (by decide)

lemma rs102 : loopRun (honest ['G', 'Y', 'R', 'B']) 7 none S0 [] =
    (RunResult.solved ['G', 'Y', 'R', 'B'] 4, [['B', 'G', 'O', 'R'], ['G', 'O', 'R', 'Y'], ['G', 'O', 'Y', 'B'], ['G', 'Y', 'R', 'B']]) := by
  refine (loopRun_none' (honest ['G', 'Y', 'R', 'B']) 7 S0 []).trans ?_
  refine (loopRun_step ['G', 'Y', 'R', 'B'] 7 6 ['B', 'G', 'O', 'R'] S0 [] 3 0 E65 ['G', 'O', 'R', 'Y'] [['B', 'G', 'O', 'R']] rfl ((calc_eq_fastP ['G', 'Y', 'R', 'B'] ['B', 'G', 'O', 'R'] (by decide) (by decide)).trans (by decide)) (by decide) pe65 rfl nx65 (by decide) (by decide) (by decide)).trans ?_
  refine Eq.trans (step_lift ['B', 'G', 'O', 'R'] (?_ : loopRun (honest ['G', 'Y', 'R', 'B']) 6 (some ['G', 'O', 'R', 'Y']) E65 [['B', 'G', 'O', 'R']] = (RunResult.solved ['G', 'Y', 'R', 'B'] 4, [['G', 'O', 'R', 'Y'], ['G', 'O', 'Y', 'B'], ['G', 'Y', 'R', 'B']]))) rfl
  refine (loopRun_step ['G', 'Y', 'R', 'B'] 6 5 ['G', 'O', 'R', 'Y'] E65 [['B', 'G', 'O', 'R']] 1 2 E84 ['G', 'O', 'Y', 'B'] [['B', 'G', 'O', 'R'], ['G', 'O', 'R', 'Y']] rfl ((calc_eq_fastP ['G', 'Y', 'R', 'B'] ['G', 'O', 'R', 'Y'] (by decide) (by decide)).trans (by decide)) (by decide) pe84 rfl nx84 (by decide) (by decide) (by decide)).trans ?_
  refine Eq.trans (step_lift ['G', 'O', 'R', 'Y'] (?_ : loopRun (honest ['G', 'Y', 'R', 'B']) 5 (some ['G', 'O', 'Y', 'B']) E84 [['B', 'G', 'O', 'R'], ['G', 'O', 'R', 'Y']] = (RunResult.solved ['G', 'Y', 'R', 'B'] 4, [['G', 'O', 'Y', 'B'], ['G', 'Y', 'R', 'B']]))) rfl
  refine (loopRun_step ['G', 'Y', 'R', 'B'] 5 4 ['G', 'O', 'Y', 'B'] E84 [['B', 'G', 'O', 'R'], ['G', 'O', 'R', 'Y']] 1 2 E105 ['G', 'Y', 'R', 'B'] [['B', 'G', 'O', 'R'], ['G', 'O', 'R', 'Y'], ['G', 'O', 'Y', 'B']] rfl ((calc_eq_fastP ['G', 'Y', 'R', 'B'] ['G', 'O', 'Y', 'B'] (by decide) (by decide)).trans (by decide)) (by decide) pe105 rfl nx105 (by decide) (by decide) (by decide)).trans ?_
  refine Eq.trans (step_lift ['G', 'O', 'Y', 'B'] (?_ : loopRun (honest ['G', 'Y', 'R', 'B']) 4 (some ['G', 'Y', 'R', 'B']) E105 [['B', 'G', 'O', 'R'], ['G', 'O', 'R', 'Y'], ['G', 'O', 'Y', 'B']] = (RunResult.solved ['G', 'Y', 'R', 'B'] 4, [['G', 'Y', 'R', 'B']]))) rfl
  exact loopRun_last ['G', 'Y', 'R', 'B'] 4 3 E105 [['B', 'G', 'O', 'R'], ['G', 'O', 'R', 'Y'], ['G', 'O', 'Y', 'B']] rfl rfl (by decide)

lemma rs103 : loopRun (honest ['G', 'Y', 'R', 'O']) 7 none S0 [] =
    (RunResult.solved ['G', 'Y', 'R', 'O'] 3, [['B', 'G', 'O', 'R'], ['G', 'O', 'R', 'Y'], ['G', 'Y', 'R', 'O']]) := by
  refine (loopRun_none' (honest ['G', 'Y', 'R', 'O']) 7 S0 []).trans ?_
  refine (loopRun_step ['G', 'Y', 'R', 'O'] 7 6 ['B', 'G', 'O', 'R'] S0 [] 3 0 E65 ['G', 'O', 'R', 'Y'] [['B', 'G', 'O', 'R']] rfl ((calc_eq_fastP ['G', 'Y', 'R', 'O'] ['B', 'G', 'O', 'R'] (by decide) (by decide)).trans (by decide)) (by decide) pe65 rfl nx65 (by decide) (by decide) (by decide)).trans ?_
  refine Eq.trans (step_lift ['B', 'G', 'O', 'R'] (?_ : loopRun (honest ['G', 'Y', 'R', 'O']) 6 (some ['G', 'O', 'R', 'Y']) E65 [['B', 'G', 'O', 'R']] = (RunResult.solved ['G', 'Y', 'R', 'O'] 3, [['G', 'O', 'R', 'Y'], ['G', 'Y', 'R', 'O']]))) rfl
  refine (loopRun_step ['G', 'Y', 'R', 'O'] 6 5 ['G', 'O', 'R', 'Y'] E65 [['B', 'G', 'O', 'R']] 2 2 E106 ['G', 'Y', 'R', 'O'] [['B', 'G', 'O', 'R'], ['G', 'O', 'R', 'Y']] rfl ((calc_eq_fastP ['G', 'Y', 'R', 'O'] ['G', 'O', 'R', 'Y'] (by decide) (by decide)).trans (by decide)) (by decide) pe106 rfl nx106 (by decide) (by decide) (by decide)).trans ?_
  refine Eq.trans (step_lift ['G', 'O', 'R', 'Y'] (?_ : loopRun (honest ['G', 'Y', 'R', 'O']) 5 (some ['G', 'Y', 'R', 'O']) E106 [['B', 'G', 'O', 'R'], ['G', 'O', 'R', 'Y']] = (RunResult.solved ['G', 'Y', 'R', 'O'] 3, [['G', 'Y', 'R', 'O']]))) rfl
  exact loopRun_last ['G', 'Y', 'R', 'O'] 5 4 E106 [['B', 'G', 'O', 'R'], ['G', 'O', 'R', 'Y']] rfl rfl (by decide)

lemma rs104 : loopRun (honest ['G', 'Y', 'R', 'P']) 7 none S0 [] =
    (RunResult.solved ['G', 'Y', 'R', 'P'] 2, [['B', 'G', 'O', 'R'], ['G', 'Y', 'R', 'P']]) := by
  refine (loopRun_none' (honest ['G', 'Y', 'R', 'P']) 7 S0 []).trans ?_
  refine (loopRun_step ['G', 'Y', 'R', 'P'] 7 6 ['B', 'G', 'O', 'R'] S0 [] 2 0 E72 ['G', 'Y', 'R', 'P'] [['B', 'G', 'O', 'R']] rfl ((calc_eq_fastP ['G', 'Y', 'R', 'P'] ['B', 'G', 'O', 'R'] (by decide) (by decide)).trans (by decide)) (by decide) pe72 rfl nx72 (by decide) (by decide) (by decide)).trans ?_
  refine Eq.trans (step_lift ['B', 'G', 'O', 'R'] (?_ : loopRun (honest ['G', 'Y', 'R', 'P']) 6 (some ['G', 'Y', 'R', 'P']) E72 [['B', 'G', 'O', 'R']] = (RunResult.solved ['G', 'Y', 'R', 'P'] 2, [['G', 'Y', 'R', 'P']]))) rfl
  exact loopRun_last ['G', 'Y', 'R', 'P'] 6 5 E72 [['B', 'G', 'O', 'R']] rfl rfl (by decide)

lemma rs105 : loopRun (honest ['G', 'Y', 'P', 'B']) 7 none S0 [] =
    (RunResult.solved ['G', 'Y', 'P', 'B'] 4, [['B', 'G', 'O', 'R'], ['G', 'Y', 'R', 'P'], ['G', 'O', 'Y', 'P'], ['G', 'Y', 'P', 'B']]) := by
  refine (loopRun_none' (honest ['G', 'Y', 'P', 'B']) 7 S0 []).trans ?_
  refine (loopRun_step ['G', 'Y', 'P', 'B'] 7 6 ['B', 'G', 'O', 'R'] S0 [] 2 0 E72 ['G', 'Y', 'R', 'P'] [['B', 'G', 'O', 'R']] rfl ((calc_eq_fastP ['G', 'Y', 'P', 'B'] ['B', 'G', 'O', 'R'] (by decide) (by decide)).trans (by decide)) (by decide) pe72 rfl nx72 (by decide) (by decide) (by decide)).trans ?_
  refine Eq.trans (step_lift ['B', 'G', 'O', 'R'] (?_ : loopRun (honest ['G', 'Y', 'P', 'B']) 6 (some ['G', 'Y', 'R', 'P']) E72 [['B', 'G', 'O', 'R']] = (RunResult.solved ['G', 'Y', 'P', 'B'] 4, [['G', 'Y', 'R', 'P'], ['G', 'O', 'Y', 'P'], ['G', 'Y', 'P', 'B']]))) rfl
  refine (loopRun_step ['G', 'Y', 'P', 'B'] 6 5 ['G', 'Y', 'R', 'P'] E72 [['B', 'G', 'O', 'R']] 1 2 E73 ['G', 'O', 'Y', 'P'] [['B', 'G', 'O', 'R'], ['G', 'Y', 'R', 'P']] rfl ((calc_eq_fastP ['G', 'Y', 'P', 'B'] ['G', 'Y', 'R', 'P'] (by decide) (by decide)).trans (by decide)) (by decide) pe73 rfl nx73 (by decide) (by decide) (by decide)).trans ?_
  refine Eq.trans (step_lift ['G', 'Y', 'R', 'P'] (?_ : loopRun (honest ['G', 'Y', 'P', 'B']) 5 (some ['G', 'O', 'Y', 'P']) E73 [['B', 'G', 'O', 'R'], ['G', 'Y', 'R', 'P']] = (RunResult.solved ['G', 'Y', 'P', 'B'] 4, [['G', 'O', 'Y', 'P'], ['G', 'Y', 'P', 'B']]))) rfl
  refine (loopRun_step ['G', 'Y', 'P', 'B'] 5 4 ['G', 'O', 'Y', 'P'] E73 [['B', 'G', 'O', 'R'], ['G', 'Y', 'R', 'P']] 2 1 [['G', 'Y', 'P', 'B']] ['G', 'Y', 'P', 'B'] [['B', 'G', 'O', 'R'], ['G', 'Y', 'R', 'P'], ['G', 'O', 'Y', 'P']] rfl ((calc_eq_fastP ['G', 'Y', 'P', 'B'] ['G', 'O', 'Y', 'P'] (by decide) (by decide)).trans (by decide)) (by decide) pe107 rfl (findNextGuess_singleton ['G', 'Y', 'P', 'B'] [['B', 'G', 'O', 'R'], ['G', 'Y', 'R', 'P'], ['G', 'O', 'Y', 'P']]) (by decide) (by decide) (by decide)).trans ?_
  refine Eq.trans (step_lift ['G', 'O', 'Y', 'P'] (?_ : loopRun (honest ['G', 'Y', 'P', 'B']) 4 (some ['G', 'Y', 'P', 'B']) [['G', 'Y', 'P', 'B']] [['B', 'G', 'O', 'R'], ['G', 'Y', 'R', 'P'], ['G', 'O', 'Y', 'P']] = (RunResult.solved ['G', 'Y', 'P', 'B'] 4, [['G', 'Y', 'P', 'B']]))) rfl
  exact loopRun_last ['G', 'Y', 'P', 'B'] 4 3 [['G', 'Y', 'P', 'B']] [['B', 'G', 'O', 'R'], ['G', 'Y', 'R', 'P'], ['G', 'O', 'Y', 'P']] rfl rfl (by decide)

lemma rs106 : loopRun (honest ['G', 'Y', 'P', 'O']) 7 none S0 [] =
    (RunResult.solved ['G', 'Y', 'P', 'O'] 4, [['B', 'G', 'O', 'R'], ['G', 'Y', 'R', 'P'], ['G', 'O', 'Y', 'P'], ['G', 'Y', 'P', 'O']]) := by
  refine (loopRun_none' (honest ['G', 'Y', 'P', 'O']) 7 S0 []).trans ?_
  refine (loopRun_step ['G', 'Y', 'P', 'O'] 7 6 ['B', 'G', 'O', 'R'] S0 [] 2 0 E72 ['G', 'Y', 'R', 'P'] [['B', 'G', 'O', 'R']] rfl ((calc_eq_fastP ['G', 'Y', 'P', 'O'] ['B', 'G', 'O', 'R'] (by decide) (by decide)).trans (by decide)) (by decide) pe72 rfl nx72 (by decide) (by decide) (by decide)).trans ?_
  refine Eq.trans (step_lift ['B', 'G', 'O', 'R'] (?_ : loopRun (honest ['G', 'Y', 'P', 'O']) 6 (some ['G', 'Y', 'R', 'P']) E72 [['B', 'G', 'O', 'R']] = (RunResult.solved ['G', 'Y', 'P', 'O'] 4, [['G', 'Y', 'R', 'P'], ['G', 'O', 'Y', 'P'], ['G', 'Y', 'P', 'O']]))) rfl
  refine (loopRun_step ['G', 'Y', 'P', 'O'] 6 5 ['G', 'Y', 'R', 'P'] E72 [['B', 'G', 'O', 'R']] 1 2 E73 ['G', 'O', 'Y', 'P'] [['B', 'G', 'O', 'R'], ['G', 'Y', 'R', 'P']] rfl ((calc_eq_fastP ['G', 'Y', 'P', 'O'] ['G', 'Y', 'R', 'P'] (by decide) (by decide)).trans (by decide)) (by decide) pe73 rfl nx73 (by decide) (by decide) (by decide)).trans ?_
  refine Eq.trans (step_lift ['G', 'Y', 'R', 'P'] (?_ : loopRun (honest ['G', 'Y', 'P', 'O']) 5 (some ['G', 'O', 'Y', 'P']) E73 [['B', 'G', 'O', 'R'], ['G', 'Y', 'R', 'P']] = (RunResult.solved ['G', 'Y', 'P', 'O'] 4, [['G', 'O', 'Y', 'P'], ['G', 'Y', 'P', 'O']]))) rfl
  refine (loopRun_step ['G', 'Y', 'P', 'O'] 5 4 ['G', 'O', 'Y', 'P'] E73 [['B', 'G', 'O', 'R'], ['G', 'Y', 'R', 'P']] 3 1 E108 ['G', 'Y', 'P', 'O'] [['B', 'G', 'O', 'R'], ['G', 'Y', 'R', 'P'], ['G', 'O', 'Y', 'P']] rfl ((calc_eq_fastP ['G', 'Y', 'P', 'O'] ['G', 'O', 'Y', 'P'] (by decide) (by decide)).trans (by decide)) (by decide) pe108 rfl nx108 (by decide) (by decide) (by decide)).trans ?_
  refine Eq.trans (step_lift ['G', 'O', 'Y', 'P'] (?_ : loopRun (honest ['G', 'Y', 'P', 'O']) 4 (some ['G', 'Y', 'P', 'O']) E108 [['B', 'G', 'O', 'R'], ['G', 'Y', 'R', 'P'], ['G', 'O', 'Y', 'P']] = (RunResult.solved ['G', 'Y', 'P', 'O'] 4, [['G', 'Y', 'P', 'O']]))) rfl
  exact loopRun_last ['G', 'Y', 'P', 'O'] 4 3 E108 [['B', 'G', 'O', 'R'], ['G', 'Y', 'R', 'P'], ['G', 'O', 'Y', 'P']] rfl rfl (by decide)

lemma rs107 : loopRun (honest ['G', 'Y', 'P', 'R']) 7 none S0 [] =
    (RunResult.solved ['G', 'Y', 'P', 'R'] 3, [['B', 'G', 'O', 'R'], ['B', 'O', 'Y', 'P'], ['G', 'Y', 'P', 'R']]) := by
  refine (loopRun_none' (honest ['G', 'Y', 'P', 'R']) 7 S0 []).trans ?_
  refine (loopRun_step ['G', 'Y', 'P', 'R'] 7 6 ['B', 'G', 'O', 'R'] S0 [] 1 1 E20 ['B', 'O', 'Y', 'P'] [['B', 'G', 'O', 'R']] rfl ((calc_eq_fastP ['G', 'Y', 'P', 'R'] ['B', 'G', 'O', 'R'] (by decide) (by decide)).trans (by decide)) (by decide) pe20 rfl nx20 (by decide) (by decide) (by decide)).trans ?_
  refine Eq.trans (step_lift ['B', 'G', 'O', 'R'] (?_ : loopRun (honest ['G', 'Y', 'P', 'R']) 6 (some ['B', 'O', 'Y', 'P']) E20 [['B', 'G', 'O', 'R']] = (RunResult.solved ['G', 'Y', 'P', 'R'] 3, [['B', 'O', 'Y', 'P'], ['G', 'Y', 'P', 'R']]))) rfl
  refine (loopRun_step ['G', 'Y', 'P', 'R'] 6 5 ['B', 'O', 'Y', 'P'] E20 [['B', 'G', 'O', 'R']] 2 0 E109 ['G', 'Y', 'P', 'R'] [['B', 'G', 'O', 'R'], ['B', 'O', 'Y', 'P']] rfl ((calc_eq_fastP ['G', 'Y', 'P', 'R'] ['B', 'O', 'Y', 'P'] (by decide) (by decide)).trans (by decide)) (by decide) pe109 rfl nx109 (by decide) (by decide) (by decide)).trans ?_
  refine Eq.trans (step_lift ['B', 'O', 'Y', 'P'] (?_ : loopRun (honest ['G', 'Y', 'P', 'R']) 5 (some ['G', 'Y', 'P', 'R']) E109 [['B', 'G', 'O', 'R'], ['B', 'O', 'Y', 'P']] = (RunResult.solved ['G', 'Y', 'P', 'R'] 3, [['G', 'Y', 'P', 'R']]))) rfl
  exact loopRun_last ['G', 'Y', 'P', 'R'] 5 4 E109 [['B', 'G', 'O', 'R'], ['B', 'O', 'Y', 'P']] rfl rfl (by decide)

lemma rs108 : loopRun (honest ['G', 'P', 'B', 'O']) 7 none S0 [] =
    (RunResult.solved ['G', 'P', 'B', 'O'] 4, [['B', 'G', 'O', 'R'], ['G', 'O', 'R', 'Y'], ['R', 'O', 'B', 'P'], ['G', 'P', 'B', 'O']]) := by
  refine (loopRun_none' (honest ['G', 'P', 'B', 'O']) 7 S0 []).trans ?_
  refine (loopRun_step ['G', 'P', 'B', 'O'] 7 6 ['B', 'G', 'O', 'R'] S0 [] 3 0 E65 ['G', 'O', 'R', 'Y'] [['B', 'G', 'O', 'R']] rfl ((calc_eq_fastP ['G', 'P', 'B', 'O'] ['B', 'G', 'O', 'R'] (by decide) (by decide)).trans (by decide)) (by decide) pe65 rfl nx65 (by decide) (by decide) (by decide)).trans ?_
  refine Eq.trans (step_lift ['B', 'G', 'O', 'R'] (?_ : loopRun (honest ['G', 'P', 'B', 'O']) 6 (some ['G', 'O', 'R', 'Y']) E65 [['B', 'G', 'O', 'R']] = (RunResult.solved ['G', 'P', 'B', 'O'] 4, [['G', 'O', 'R', 'Y'], ['R', 'O', 'B', 'P'], ['G', 'P', 'B', 'O']]))) rfl
  refine (loopRun_step ['G', 'P', 'B', 'O'] 6 5 ['G', 'O', 'R', 'Y'] E65 [['B', 'G', 'O', 'R']] 1 1 E75 ['R', 'O', 'B', 'P'] [['B', 'G', 'O', 'R'], ['G', 'O', 'R', 'Y']] rfl ((calc_eq_fastP ['G', 'P', 'B', 'O'] ['G', 'O', 'R', 'Y'] (by decide) (by decide)).trans (by decide)) (by decide) pe75 rfl nx75 (by decide) (by decide) (by decide)).trans ?_
  refine Eq.trans (step_lift ['G', 'O', 'R', 'Y'] (?_ : loopRun (honest ['G', 'P', 'B', 'O']) 5 (some ['R', 'O', 'B', 'P']) E75 [['B', 'G', 'O', 'R'], ['G', 'O', 'R', 'Y']] = (RunResult.solved ['G', 'P', 'B', 'O'] 4, [['R', 'O', 'B', 'P'], ['G', 'P', 'B', 'O']]))) rfl
  refine (loopRun_step ['G', 'P', 'B', 'O'] 5 4 ['R', 'O', 'B', 'P'] E75 [['B', 'G', 'O', 'R'], ['G', 'O', 'R', 'Y']] 2 1 E110 ['G', 'P', 'B', 'O'] [['B', 'G', 'O', 'R'], ['G', 'O', 'R', 'Y'], ['R', 'O', 'B', 'P']] rfl ((calc_eq_fastP ['G', 'P', 'B', 'O'] ['R', 'O', 'B', 'P'] (by decide) (by decide)).trans (by decide)) (by decide) pe110 rfl nx110 (by decide) (by decide) (by decide)).trans ?_
  refine Eq.trans (step_lift ['R', 'O', 'B', 'P'] (?_ : loopRun (honest ['G', 'P', 'B', 'O']) 4 (some ['G', 'P', 'B', 'O']) E110 [['B', 'G', 'O', 'R'], ['G', 'O', 'R', 'Y'], ['R', 'O', 'B', 'P']] = (RunResult.solved ['G', 'P', 'B', 'O'] 4, [['G', 'P', 'B', 'O']]))) rfl
  exact loopRun_last ['G', 'P', 'B', 'O'] 4 3 E110 [['B', 'G', 'O', 'R'], ['G', 'O', 'R', 'Y'], ['R', 'O', 'B', 'P']] rfl rfl (by decide)

lemma rs109 : loopRun (honest ['G', 'P', 'B', 'R']) 7 none S0 [] =
    (RunResult.solved ['G', 'P', 'B', 'R'] 5, [['B', 'G', 'O', 'R'], ['B', 'O', 'R', 'Y'], ['G', 'P', 'O', 'B'], ['G', 'R', 'O', 'P'], ['G', 'P', 'B', 'R']]) := by
  refine (loopRun_none' (honest ['G', 'P', 'B', 'R']) 7 S0 []).trans ?_
  refine (loopRun_step ['G', 'P', 'B', 'R'] 7 6 ['B', 'G', 'O', 'R'] S0 [] 2 1 E13 ['B', 'O', 'R', 'Y'] [['B', 'G', 'O', 'R']] rfl ((calc_eq_fastP ['G', 'P', 'B', 'R'] ['B', 'G', 'O', 'R'] (by decide) (by decide)).trans (by decide)) (by decide) pe13 rfl nx13 (by decide) (by decide) (by decide)).trans ?_
  refine Eq.trans (step_lift ['B', 'G', 'O', 'R'] (?_ : loopRun (honest ['G', 'P', 'B', 'R']) 6 (some ['B', 'O', 'R', 'Y']) E13 [['B', 'G', 'O', 'R']] = (RunResult.solved ['G', 'P', 'B', 'R'] 5, [['B', 'O', 'R', 'Y'], ['G', 'P', 'O', 'B'], ['G', 'R', 'O', 'P'], ['G', 'P', 'B', 'R']]))) rfl
  refine (loopRun_step ['G', 'P', 'B', 'R'] 6 5 ['B', 'O', 'R', 'Y'] E13 [['B', 'G', 'O', 'R']] 2 0 E62 ['G', 'P', 'O', 'B'] [['B', 'G', 'O', 'R'], ['B', 'O', 'R', 'Y']] rfl ((calc_eq_fastP ['G', 'P', 'B', 'R'] ['B', 'O', 'R', 'Y'] (by decide) (by decide)).trans (by decide)) (by decide) pe62 rfl nx62 (by decide) (by decide) (by decide)).trans ?_
  refine Eq.trans (step_lift ['B', 'O', 'R', 'Y'] (?_ : loopRun (honest ['G', 'P', 'B', 'R']) 5 (some ['G', 'P', 'O', 'B']) E62 [['B', 'G', 'O', 'R'], ['B', 'O', 'R', 'Y']] = (RunResult.solved ['G', 'P', 'B', 'R'] 5, [['G', 'P', 'O', 'B'], ['G', 'R', 'O', 'P'], ['G', 'P', 'B', 'R']]))) rfl
  refine (loopRun_step ['G', 'P', 'B', 'R'] 5 4 ['G', 'P', 'O', 'B'] E62 [['B', 'G', 'O', 'R'], ['B', 'O', 'R', 'Y']] 1 2 E93 ['G', 'R', 'O', 'P'] [['B', 'G', 'O', 'R'], ['B', 'O', 'R', 'Y'], ['G', 'P', 'O', 'B']] rfl ((calc_eq_fastP ['G', 'P', 'B', 'R'] ['G', 'P', 'O', 'B'] (by decide) (by decide)).trans (by decide)) (by decide) pe93 rfl nx93 (by decide) (by decide) (by decide)).trans ?_
  refine Eq.trans (step_lift ['G', 'P', 'O', 'B'] (?_ : loopRun (honest ['G', 'P', 'B', 'R']) 4 (some ['G', 'R', 'O', 'P']) E93 [['B', 'G', 'O', 'R'], ['B', 'O', 'R', 'Y'], ['G', 'P', 'O', 'B']] = (RunResult.solved ['G', 'P', 'B', 'R'] 5, [['G', 'R', 'O', 'P'], ['G', 'P', 'B', 'R']]))) rfl
  refine (loopRun_step ['G', 'P', 'B', 'R'] 4 3 ['G', 'R', 'O', 'P'] E93 [['B', 'G', 'O', 'R'], ['B', 'O', 'R', 'Y'], ['G', 'P', 'O', 'B']] 2 1 [['G', 'P', 'B', 'R']] ['G', 'P', 'B', 'R'] [['B', 'G', 'O', 'R'], ['B', 'O', 'R', 'Y'], ['G', 'P', 'O', 'B'], ['G', 'R', 'O', 'P']] rfl ((calc_eq_fastP ['G', 'P', 'B', 'R'] ['G', 'R', 'O', 'P'] (by decide) (by decide)).trans (by decide)) (by decide) pe111 rfl (findNextGuess_singleton ['G', 'P', 'B', 'R'] [['B', 'G', 'O', 'R'], ['B', 'O', 'R', 'Y'], ['G', 'P', 'O', 'B'], ['G', 'R', 'O', 'P']]) (by decide) (by decide) (by decide)).trans ?_
  refine Eq.trans (step_lift ['G', 'R', 'O', 'P'] (?_ : loopRun (honest ['G', 'P', 'B', 'R']) 3 (some ['G', 'P', 'B', 'R']) [['G', 'P', 'B', 'R']] [['B', 'G', 'O', 'R'], ['B', 'O', 'R', 'Y'], ['G', 'P', 'O', 'B'], ['G', 'R', 'O', 'P']] = (RunResult.solved ['G', 'P', 'B', 'R'] 5, [['G', 'P', 'B', 'R']]))) rfl
  exact loopRun_last ['G', 'P', 'B', 'R'] 3 2 [['G', 'P', 'B', 'R']] [['B', 'G', 'O', 'R'], ['B', 'O', 'R', 'Y'], ['G', 'P', 'O', 'B'], ['G', 'R', 'O', 'P']] rfl rfl (by decide)

lemma rs110 : loopRun (honest ['G', 'P', 'B', 'Y']) 7 none S0 [] =
    (RunResult.solved ['G', 'P', 'B', 'Y'] 4, [['B', 'G', 'O', 'R'], ['G', 'Y', 'R', 'P'], ['G', 'B', 'P', 'Y'], ['G', 'P', 'B', 'Y']]) := by
  refine (loopRun_none' (honest ['G', 'P', 'B', 'Y']) 7 S0 []).trans ?_
  refine (loopRun_step ['G', 'P', 'B', 'Y'] 7 6 ['B', 'G', 'O', 'R'] S0 [] 2 0 E72 ['G', 'Y', 'R', 'P'] [['B', 'G', 'O', 'R']] rfl ((calc_eq_fastP ['G', 'P', 'B', 'Y'] ['B', 'G', 'O', 'R'] (by decide) (by decide)).trans (by decide)) (by decide) pe72 rfl nx72 (by decide) (by decide) (by decide)).trans ?_
  refine Eq.trans (step_lift ['B', 'G', 'O', 'R'] (?_ : loopRun (honest ['G', 'P', 'B', 'Y']) 6 (some ['G', 'Y', 'R', 'P']) E72 [['B', 'G', 'O', 'R']] = (RunResult.solved ['G', 'P', 'B', 'Y'] 4, [['G', 'Y', 'R', 'P'], ['G', 'B', 'P', 'Y'], ['G', 'P', 'B', 'Y']]))) rfl
  refine (loopRun_step ['G', 'P', 'B', 'Y'] 6 5 ['G', 'Y', 'R', 'P'] E72 [['B', 'G', 'O', 'R']] 2 1 E78 ['G', 'B', 'P', 'Y'] [['B', 'G', 'O', 'R'], ['G', 'Y', 'R', 'P']] rfl ((calc_eq_fastP ['G', 'P', 'B', 'Y'] ['G', 'Y', 'R', 'P'] (by decide) (by decide)).trans (by decide)) (by decide) pe78 rfl nx78 (by decide) (by decide) (by decide)).trans ?_
  refine Eq.trans (step_lift ['G', 'Y', 'R', 'P'] (?_ : loopRun (honest ['G', 'P', 'B', 'Y']) 5 (some ['G', 'B', 'P', 'Y']) E78 [['B', 'G', 'O', 'R'], ['G', 'Y', 'R', 'P']] = (RunResult.solved ['G', 'P', 'B', 'Y'] 4, [['G', 'B', 'P', 'Y'], ['G', 'P', 'B', 'Y']]))) rfl
  refine (loopRun_step ['G', 'P', 'B', 'Y'] 5 4 ['G', 'B', 'P', 'Y'] E78 [['B', 'G', 'O', 'R'], ['G', 'Y', 'R', 'P']] 2 2 [['G', 'P', 'B', 'Y']] ['G', 'P', 'B', 'Y'] [['B', 'G', 'O', 'R'], ['G', 'Y', 'R', 'P'], ['G', 'B', 'P', 'Y']] rfl ((calc_eq_fastP ['G', 'P', 'B', 'Y'] ['G', 'B', 'P', 'Y'] (by decide) (by decide)).trans (by decide)) (by decide) pe112 rfl (findNextGuess_singleton ['G', 'P', 'B', 'Y'] [['B', 'G', 'O', 'R'], ['G', 'Y', 'R', 'P'], ['G', 'B', 'P', 'Y']]) (by decide) (by decide) (by decide)).trans ?_
  refine Eq.trans (step_lift ['G', 'B', 'P', 'Y'] (?_ : loopRun (honest ['G', 'P', 'B', 'Y']) 4 (some ['G', 'P', 'B', 'Y']) [['G', 'P', 'B', 'Y']] [['B', 'G', 'O', 'R'], ['G', 'Y', 'R', 'P'], ['G', 'B', 'P', 'Y']] = (RunResult.solved ['G', 'P', 'B', 'Y'] 4, [['G', 'P', 'B', 'Y']]))) rfl
  exact loopRun_last ['G', 'P', 'B', 'Y'] 4 3 [['G', 'P', 'B', 'Y']] [['B', 'G', 'O', 'R'], ['G', 'Y', 'R', 'P'], ['G', 'B', 'P', 'Y']] rfl rfl (by decide)

lemma rs111 : loopRun (honest ['G', 'P', 'O', 'B']) 7 none S0 [] =
    (RunResult.solved ['G', 'P', 'O', 'B'] 3, [['B', 'G', 'O', 'R'], ['B', 'O', 'R', 'Y'], ['G', 'P', 'O', 'B']]) := by
  refine (loopRun_none' (honest ['G', 'P', 'O', 'B']) 7 S0 []).trans ?_
  refine (loopRun_step ['G', 'P', 'O', 'B'] 7 6 ['B', 'G', 'O', 'R'] S0 [] 2 1 E13 ['B', 'O', 'R', 'Y'] [['B', 'G', 'O', 'R']] rfl ((calc_eq_fastP ['G', 'P', 'O', 'B'] ['B', 'G', 'O', 'R'] (by decide) (by decide)).trans (by decide)) (by decide) pe13 rfl nx13 (by decide) (by decide) (by decide)).trans ?_
  refine Eq.trans (step_lift ['B', 'G', 'O', 'R'] (?_ : loopRun (honest ['G', 'P', 'O', 'B']) 6 (some ['B', 'O', 'R', 'Y']) E13 [['B', 'G', 'O', 'R']] = (RunResult.solved ['G', 'P', 'O', 'B'] 3, [['B', 'O', 'R', 'Y'], ['G', 'P', 'O', 'B']]))) rfl
  refine (loopRun_step ['G', 'P', 'O', 'B'] 6 5 ['B', 'O', 'R', 'Y'] E13 [['B', 'G', 'O', 'R']] 2 0 E62 ['G', 'P', 'O', 'B'] [['B', 'G', 'O', 'R'], ['B', 'O', 'R', 'Y']] rfl ((calc_eq_fastP ['G', 'P', 'O', 'B'] ['B', 'O', 'R', 'Y'] (by decide) (by decide)).trans (by decide)) (by decide) pe62 rfl nx62 (by decide) (by decide) (by decide)).trans ?_
  refine Eq.trans (step_lift ['B', 'O', 'R', 'Y'] (?_ : loopRun (honest ['G', 'P', 'O', 'B']) 5 (some ['G', 'P', 'O', 'B']) E62 [['B', 'G', 'O', 'R'], ['B', 'O', 'R', 'Y']] = (RunResult.solved ['G', 'P', 'O', 'B'] 3, [['G', 'P', 'O', 'B']]))) rfl
  exact loopRun_last ['G', 'P', 'O', 'B'] 5 4 E62 [['B', 'G', 'O', 'R'], ['B', 'O', 'R', 'Y']] rfl rfl (by decide)

lemma rs112 : loopRun (honest ['G', 'P', 'O', 'R']) 7 none S0 [] =
    (RunResult.solved ['G', 'P', 'O', 'R'] 3, [['B', 'G', 'O', 'R'], ['B', 'G', 'R', 'Y'], ['G', 'P', 'O', 'R']]) := by
  refine (loopRun_none' (honest ['G', 'P', 'O', 'R']) 7 S0 []).trans ?_
  refine (loopRun_step ['G', 'P', 'O', 'R'] 7 6 ['B', 'G', 'O', 'R'] S0 [] 1 2 E3 ['B', 'G', 'R', 'Y'] [['B', 'G', 'O', 'R']] rfl ((calc_eq_fastP ['G', 'P', 'O', 'R'] ['B', 'G', 'O', 'R'] (by decide) (by decide)).trans (by decide)) (by decide) pe3 rfl nx3 (by decide) (by decide) (by decide)).trans ?_
  refine Eq.trans (step_lift ['B', 'G', 'O', 'R'] (?_ : loopRun (honest ['G', 'P', 'O', 'R']) 6 (some ['B', 'G', 'R', 'Y']) E3 [['B', 'G', 'O', 'R']] = (RunResult.solved ['G', 'P', 'O', 'R'] 3, [['B', 'G', 'R', 'Y'], ['G', 'P', 'O', 'R']]))) rfl
  refine (loopRun_step ['G', 'P', 'O', 'R'] 6 5 ['B', 'G', 'R', 'Y'] E3 [['B', 'G', 'O', 'R']] 2 0 E113 ['G', 'P', 'O', 'R'] [['B', 'G', 'O', 'R'], ['B', 'G', 'R', 'Y']] rfl ((calc_eq_fastP ['G', 'P', 'O', 'R'] ['B', 'G', 'R', 'Y'] (by decide) (by decide)).trans (by decide)) (by decide) pe113 rfl nx113 (by decide) (by decide) (by decide)).trans ?_
  refine Eq.trans (step_lift ['B', 'G', 'R', 'Y'] (?_ : loopRun (honest ['G', 'P', 'O', 'R']) 5 (some ['G', 'P', 'O', 'R']) E113 [['B', 'G', 'O', 'R'], ['B', 'G', 'R', 'Y']] = (RunResult.solved ['G', 'P', 'O', 'R'] 3, [['G', 'P', 'O', 'R']]))) rfl
  exact loopRun_last ['G', 'P', 'O', 'R'] 5 4 E113 [['B', 'G', 'O', 'R'], ['B', 'G', 'R', 'Y']] rfl rfl (by decide)

lemma rs113 : loopRun (honest ['G', 'P', 'O', 'Y']) 7 none S0 [] =
    (RunResult.solved ['G', 'P', 'O', 'Y'] 3, [['B', 'G', 'O', 'R'], ['B', 'O', 'Y', 'P'], ['G', 'P', 'O', 'Y']]) := by
  refine (loopRun_none' (honest ['G', 'P', 'O', 'Y']) 7 S0 []).trans ?_
  refine (loopRun_step ['G', 'P', 'O', 'Y'] 7 6 ['B', 'G', 'O', 'R'] S0 [] 1 1 E20 ['B', 'O', 'Y', 'P'] [['B', 'G', 'O', 'R']] rfl ((calc_eq_fastP ['G', 'P', 'O', 'Y'] ['B', 'G', 'O', 'R'] (by decide) (by decide)).trans (by decide)) (by decide) pe20 rfl nx20 (by decide) (by decide) (by decide)).trans ?_
  refine Eq.trans (step_lift ['B', 'G', 'O', 'R'] (?_ : loopRun (honest ['G', 'P', 'O', 'Y']) 6 (some ['B', 'O', 'Y', 'P']) E20 [['B', 'G', 'O', 'R']] = (RunResult.solved ['G', 'P', 'O', 'Y'] 3, [['B', 'O', 'Y', 'P'], ['G', 'P', 'O', 'Y']]))) rfl
  refine (loopRun_step ['G', 'P', 'O', 'Y'] 6 5 ['B', 'O', 'Y', 'P'] E20 [['B', 'G', 'O', 'R']] 3 0 E114 ['G', 'P', 'O', 'Y'] [['B', 'G', 'O', 'R'], ['B', 'O', 'Y', 'P']] rfl ((calc_eq_fastP ['G', 'P', 'O', 'Y'] ['B', 'O', 'Y', 'P'] (by decide) (by decide)).trans (by decide)) (by decide) pe114 rfl nx114 (by decide) (by decide) (by decide)).trans ?_
  refine Eq.trans (step_lift ['B', 'O', 'Y', 'P'] (?_ : loopRun (honest ['G', 'P', 'O', 'Y']) 5 (some ['G', 'P', 'O', 'Y']) E114 [['B', 'G', 'O', 'R'], ['B', 'O', 'Y', 'P']] = (RunResult.solved ['G', 'P', 'O', 'Y'] 3, [['G', 'P', 'O', 'Y']]))) rfl
  exact loopRun_last ['G', 'P', 'O', 'Y'] 5 4 E114 [['B', 'G', 'O', 'R'], ['B', 'O', 'Y', 'P']] rfl rfl (by decide)

lemma rs114 : loopRun (honest ['G', 'P', 'R', 'B']) 7 none S0 [] =
    (RunResult.solved ['G', 'P', 'R', 'B'] 4, [['B', 'G', 'O', 'R'], ['G', 'O', 'R', 'Y'], ['G', 'B', 'R', 'P'], ['G', 'P', 'R', 'B']]) := by
  refine (loopRun_none' (honest ['G', 'P', 'R', 'B']) 7 S0 []).trans ?_
  refine (loopRun_step ['G', 'P', 'R', 'B'] 7 6 ['B', 'G', 'O', 'R'] S0 [] 3 0 E65 ['G', 'O', 'R', 'Y'] [['B', 'G', 'O', 'R']] rfl ((calc_eq_fastP ['G', 'P', 'R', 'B'] ['B', 'G', 'O', 'R'] (by decide) (by decide)).trans (by decide)) (by decide) pe65 rfl nx65 (by decide) (by decide) (by decide)).trans ?_
  refine Eq.trans (step_lift ['B', 'G', 'O', 'R'] (?_ : loopRun (honest ['G', 'P', 'R', 'B']) 6 (some ['G', 'O', 'R', 'Y']) E65 [['B', 'G', 'O', 'R']] = (RunResult.solved ['G', 'P', 'R', 'B'] 4, [['G', 'O', 'R', 'Y'], ['G', 'B', 'R', 'P'], ['G', 'P', 'R', 'B']]))) rfl
  refine (loopRun_step ['G', 'P', 'R', 'B'] 6 5 ['G', 'O', 'R', 'Y'] E65 [['B', 'G', 'O', 'R']] 0 2 E67 ['G', 'B', 'R', 'P'] [['B', 'G', 'O', 'R'], ['G', 'O', 'R', 'Y']] rfl ((calc_eq_fastP ['G', 'P', 'R', 'B'] ['G', 'O', 'R', 'Y'] (by decide) (by decide)).trans (by decide)) (by decide) pe67 rfl nx67 (by decide) (by decide) (by decide)).trans ?_
  refine Eq.trans (step_lift ['G', 'O', 'R', 'Y'] (?_ : loopRun (honest ['G', 'P', 'R', 'B']) 5 (some ['G', 'B', 'R', 'P']) E67 [['B', 'G', 'O', 'R'], ['G', 'O', 'R', 'Y']] = (RunResult.solved ['G', 'P', 'R', 'B'] 4, [['G', 'B', 'R', 'P'], ['G', 'P', 'R', 'B']]))) rfl
  refine (loopRun_step ['G', 'P', 'R', 'B'] 5 4 ['G', 'B', 'R', 'P'] E67 [['B', 'G', 'O', 'R'], ['G', 'O', 'R', 'Y']] 2 2 [['G', 'P', 'R', 'B']] ['G', 'P', 'R', 'B'] [['B', 'G', 'O', 'R'], ['G', 'O', 'R', 'Y'], ['G', 'B', 'R', 'P']] rfl ((calc_eq_fastP ['G', 'P', 'R', 'B'] ['G', 'B', 'R', 'P'] (by decide) (by decide)).trans (by decide)) (by decide) pe115 rfl (findNextGuess_singleton ['G', 'P', 'R', 'B'] [['B', 'G', 'O', 'R'], ['G', 'O', 'R', 'Y'], ['G', 'B', 'R', 'P']]) (by decide) (by decide) (by decide)).trans ?_
  refine Eq.trans (step_lift ['G', 'B', 'R', 'P'] (?_ : loopRun (honest ['G', 'P', 'R', 'B']) 4 (some ['G', 'P', 'R', 'B']) [['G', 'P', 'R', 'B']] [['B', 'G', 'O', 'R'], ['G', 'O', 'R', 'Y'], ['G', 'B', 'R', 'P']] = (RunResult.solved ['G', 'P', 'R', 'B'] 4, [['G', 'P', 'R', 'B']]))) rfl
  exact loopRun_last ['G', 'P', 'R', 'B'] 4 3 [['G', 'P', 'R', 'B']] [['B', 'G', 'O', 'R'], ['G', 'O', 'R', 'Y'], ['G', 'B', 'R', 'P']] rfl rfl (by decide)

lemma rs115 : loopRun (honest ['G', 'P', 'R', 'O']) 7 none S0 [] =
    (RunResult.solved ['G', 'P', 'R', 'O'] 4, [['B', 'G', 'O', 'R'], ['G', 'O', 'R', 'Y'], ['G', 'O', 'Y', 'B'], ['G', 'P', 'R', 'O']]) := by
  refine (loopRun_none' (honest ['G', 'P', 'R', 'O']) 7 S0 []).trans ?_
  refine (loopRun_step ['G', 'P', 'R', 'O'] 7 6 ['B', 'G', 'O', 'R'] S0 [] 3 0 E65 ['G', 'O', 'R', 'Y'] [['B', 'G', 'O', 'R']] rfl ((calc_eq_fastP ['G', 'P', 'R', 'O'] ['B', 'G', 'O', 'R'] (by decide) (by decide)).trans (by decide)) (by decide) pe65 rfl nx65 (by decide) (by decide) (by decide)).trans ?_
  refine Eq.trans (step_lift ['B', 'G', 'O', 'R'] (?_ : loopRun (honest ['G', 'P', 'R', 'O']) 6 (some ['G', 'O', 'R', 'Y']) E65 [['B', 'G', 'O', 'R']] = (RunResult.solved ['G', 'P', 'R', 'O'] 4, [['G', 'O', 'R', 'Y'], ['G', 'O', 'Y', 'B'], ['G', 'P', 'R', 'O']]))) rfl
  refine (loopRun_step ['G', 'P', 'R', 'O'] 6 5 ['G', 'O', 'R', 'Y'] E65 [['B', 'G', 'O', 'R']] 1 2 E84 ['G', 'O', 'Y', 'B'] [['B', 'G', 'O', 'R'], ['G', 'O', 'R', 'Y']] rfl ((calc_eq_fastP ['G', 'P', 'R', 'O'] ['G', 'O', 'R', 'Y'] (by decide) (by decide)).trans (by decide)) (by decide) pe84 rfl nx84 (by decide) (by decide) (by decide)).trans ?_
  refine Eq.trans (step_lift ['G', 'O', 'R', 'Y'] (?_ : loopRun (honest ['G', 'P', 'R', 'O']) 5 (some ['G', 'O', 'Y', 'B']) E84 [['B', 'G', 'O', 'R'], ['G', 'O', 'R', 'Y']] = (RunResult.solved ['G', 'P', 'R', 'O'] 4, [['G', 'O', 'Y', 'B'], ['G', 'P', 'R', 'O']]))) rfl
  refine (loopRun_step ['G', 'P', 'R', 'O'] 5 4 ['G', 'O', 'Y', 'B'] E84 [['B', 'G', 'O', 'R'], ['G', 'O', 'R', 'Y']] 1 1 E116 ['G', 'P', 'R', 'O'] [['B', 'G', 'O', 'R'], ['G', 'O', 'R', 'Y'], ['G', 'O', 'Y', 'B']] rfl ((calc_eq_fastP ['G', 'P', 'R', 'O'] ['G', 'O', 'Y', 'B'] (by decide) (by decide)).trans (by decide)) (by decide) pe116 rfl nx116 (by decide) (by decide) (by decide)).trans ?_
  refine Eq.trans (step_lift ['G', 'O', 'Y', 'B'] (?_ : loopRun (honest ['G', 'P', 'R', 'O']) 4 (some ['G', 'P', 'R', 'O']) E116 [['B', 'G', 'O', 'R'], ['G', 'O', 'R', 'Y'], ['G', 'O', 'Y', 'B']] = (RunResult.solved ['G', 'P', 'R', 'O'] 4, [['G', 'P', 'R', 'O']]))) rfl
  exact loopRun_last ['G', 'P', 'R', 'O'] 4 3 E116 [['B', 'G', 'O', 'R'], ['G', 'O', 'R', 'Y'], ['G', 'O', 'Y', 'B']] rfl rfl (by decide)

lemma rs116 : loopRun (honest ['G', 'P', 'R', 'Y']) 7 none S0 [] =
    (RunResult.solved ['G', 'P', 'R', 'Y'] 4, [['B', 'G', 'O', 'R'], ['G', 'Y', 'R', 'P'], ['G', 'R', 'Y', 'P'], ['G', 'P', 'R', 'Y']]) := by
  refine (loopRun_none' (honest ['G', 'P', 'R', 'Y']) 7 S0 []).trans ?_
  refine (loopRun_step ['G', 'P', 'R', 'Y'] 7 6 ['B', 'G', 'O', 'R'] S0 [] 2 0 E72 ['G', 'Y', 'R', 'P'] [['B', 'G', 'O', 'R']] rfl ((calc_eq_fastP ['G', 'P', 'R', 'Y'] ['B', 'G', 'O', 'R'] (by decide) (by decide)).trans (by decide)) (by decide) pe72 rfl nx72 (by decide) (by decide) (by decide)).trans ?_
  refine Eq.trans (step_lift ['B', 'G', 'O', 'R'] (?_ : loopRun (honest ['G', 'P', 'R', 'Y']) 6 (some ['G', 'Y', 'R', 'P']) E72 [['B', 'G', 'O', 'R']] = (RunResult.solved ['G', 'P', 'R', 'Y'] 4, [['G', 'Y', 'R', 'P'], ['G', 'R', 'Y', 'P'], ['G', 'P', 'R', 'Y']]))) rfl
  refine (loopRun_step ['G', 'P', 'R', 'Y'] 6 5 ['G', 'Y', 'R', 'P'] E72 [['B', 'G', 'O', 'R']] 2 2 E96 ['G', 'R', 'Y', 'P'] [['B', 'G', 'O', 'R'], ['G', 'Y', 'R', 'P']] rfl ((calc_eq_fastP ['G', 'P', 'R', 'Y'] ['G', 'Y', 'R', 'P'] (by decide) (by decide)).trans (by decide)) (by decide) pe96 rfl nx96 (by decide) (by decide) (by decide)).trans ?_
  refine Eq.trans (step_lift ['G', 'Y', 'R', 'P'] (?_ : loopRun (honest ['G', 'P', 'R', 'Y']) 5 (some ['G', 'R', 'Y', 'P']) E96 [['B', 'G', 'O', 'R'], ['G', 'Y', 'R', 'P']] = (RunResult.solved ['G', 'P', 'R', 'Y'] 4, [['G', 'R', 'Y', 'P'], ['G', 'P', 'R', 'Y']]))) rfl
  refine (loopRun_step ['G', 'P', 'R', 'Y'] 5 4 ['G', 'R', 'Y', 'P'] E96 [['B', 'G', 'O', 'R'], ['G', 'Y', 'R', 'P']] 3 1 E117 ['G', 'P', 'R', 'Y'] [['B', 'G', 'O', 'R'], ['G', 'Y', 'R', 'P'], ['G', 'R', 'Y', 'P']] rfl ((calc_eq_fastP ['G', 'P', 'R', 'Y'] ['G', 'R', 'Y', 'P'] (by decide) (by decide)).trans (by decide)) (by decide) pe117 rfl nx117 (by decide) (by decide) (by decide)).trans ?_
  refine Eq.trans (step_lift ['G', 'R', 'Y', 'P'] (?_ : loopRun (honest ['G', 'P', 'R', 'Y']) 4 (some ['G', 'P', 'R', 'Y']) E117 [['B', 'G', 'O', 'R'], ['G', 'Y', 'R', 'P'], ['G', 'R', 'Y', 'P']] = (RunResult.solved ['G', 'P', 'R', 'Y'] 4, [['G', 'P', 'R', 'Y']]))) rfl
  exact loopRun_last ['G', 'P', 'R', 'Y'] 4 3 E117 [['B', 'G', 'O', 'R'], ['G', 'Y', 'R', 'P'], ['G', 'R', 'Y', 'P']] rfl rfl (by decide)

lemma rs117 : loopRun (honest ['G', 'P', 'Y', 'B']) 7 none S0 [] =
    (RunResult.solved ['G', 'P', 'Y', 'B'] 4, [['B', 'G', 'O', 'R'], ['G', 'Y', 'R', 'P'], ['G', 'B', 'P', 'Y'], ['G', 'P', 'Y', 'B']]) := by
  refine (loopRun_none' (honest ['G', 'P', 'Y', 'B']) 7 S0 []).trans ?_
  refine (loopRun_step ['G', 'P', 'Y', 'B'] 7 6 ['B', 'G', 'O', 'R'] S0 [] 2 0 E72 ['G', 'Y', 'R', 'P'] [['B', 'G', 'O', 'R']] rfl ((calc_eq_fastP ['G', 'P', 'Y', 'B'] ['B', 'G', 'O', 'R'] (by decide) (by decide)).trans (by decide)) (by decide) pe72 rfl nx72 (by decide) (by decide) (by decide)).trans ?_
  refine Eq.trans (step_lift ['B', 'G', 'O', 'R'] (?_ : loopRun (honest ['G', 'P', 'Y', 'B']) 6 (some ['G', 'Y', 'R', 'P']) E72 [['B', 'G', 'O', 'R']] = (RunResult.solved ['G', 'P', 'Y', 'B'] 4, [['G', 'Y', 'R', 'P'], ['G', 'B', 'P', 'Y'], ['G', 'P', 'Y', 'B']]))) rfl
  refine (loopRun_step ['G', 'P', 'Y', 'B'] 6 5 ['G', 'Y', 'R', 'P'] E72 [['B', 'G', 'O', 'R']] 2 1 E78 ['G', 'B', 'P', 'Y'] [['B', 'G', 'O', 'R'], ['G', 'Y', 'R', 'P']] rfl ((calc_eq_fastP ['G', 'P', 'Y', 'B'] ['G', 'Y', 'R', 'P'] (by decide) (by decide)).trans (by decide)) (by decide) pe78 rfl nx78 (by decide) (by decide) (by decide)).trans ?_
  refine Eq.trans (step_lift ['G', 'Y', 'R', 'P'] (?_ : loopRun (honest ['G', 'P', 'Y', 'B']) 5 (some ['G', 'B', 'P', 'Y']) E78 [['B', 'G', 'O', 'R'], ['G', 'Y', 'R', 'P']] = (RunResult.solved ['G', 'P', 'Y', 'B'] 4, [['G', 'B', 'P', 'Y'], ['G', 'P', 'Y', 'B']]))) rfl
  refine (loopRun_step ['G', 'P', 'Y', 'B'] 5 4 ['G', 'B', 'P', 'Y'] E78 [['B', 'G', 'O', 'R'], ['G', 'Y', 'R', 'P']] 3 1 E118 ['G', 'P', 'Y', 'B'] [['B', 'G', 'O', 'R'], ['G', 'Y', 'R', 'P'], ['G', 'B', 'P', 'Y']] rfl ((calc_eq_fastP ['G', 'P', 'Y', 'B'] ['G', 'B', 'P', 'Y'] (by decide) (by decide)).trans (by decide)) (by decide) pe118 rfl nx118 (by decide) (by decide) (by decide)).trans ?_
  refine Eq.trans (step_lift ['G', 'B', 'P', 'Y'] (?_ : loopRun (honest ['G', 'P', 'Y', 'B']) 4 (some ['G', 'P', 'Y', 'B']) E118 [['B', 'G', 'O', 'R'], ['G', 'Y', 'R', 'P'], ['G', 'B', 'P', 'Y']] = (RunResult.solved ['G', 'P', 'Y', 'B'] 4, [['G', 'P', 'Y', 'B']]))) rfl
  exact loopRun_last ['G', 'P', 'Y', 'B'] 4 3 E118 [['B', 'G', 'O', 'R'], ['G', 'Y', 'R', 'P'], ['G', 'B', 'P', 'Y']] rfl rfl (by decide)

lemma rs118 : loopRun (honest ['G', 'P', 'Y', 'O']) 7 none S0 [] =
    (RunResult.solved ['G', 'P', 'Y', 'O'] 4, [['B', 'G', 'O', 'R'], ['G', 'Y', 'R', 'P'], ['G', 'B', 'P', 'Y'], ['G', 'P', 'Y', 'O']]) := by
  refine (loopRun_none' (honest ['G', 'P', 'Y', 'O']) 7 S0 []).trans ?_
  refine (loopRun_step ['G', 'P', 'Y', 'O'] 7 6 ['B', 'G', 'O', 'R'] S0 [] 2 0 E72 ['G', 'Y', 'R', 'P'] [['B', 'G', 'O', 'R']] rfl ((calc_eq_fastP ['G', 'P', 'Y', 'O'] ['B', 'G', 'O', 'R'] (by decide) (by decide)).trans (by decide)) (by decide) pe72 rfl nx72 (by decide) (by decide) (by decide)).trans ?_
  refine Eq.trans (step_lift ['B', 'G', 'O', 'R'] (?_ : loopRun (honest ['G', 'P', 'Y', 'O']) 6 (some ['G', 'Y', 'R', 'P']) E72 [['B', 'G', 'O', 'R']] = (RunResult.solved ['G', 'P', 'Y', 'O'] 4, [['G', 'Y', 'R', 'P'], ['G', 'B', 'P', 'Y'], ['G', 'P', 'Y', 'O']]))) rfl
  refine (loopRun_step ['G', 'P', 'Y', 'O'] 6 5 ['G', 'Y', 'R', 'P'] E72 [['B', 'G', 'O', 'R']] 2 1 E78 ['G', 'B', 'P', 'Y'] [['B', 'G', 'O', 'R'], ['G', 'Y', 'R', 'P']] rfl ((calc_eq_fastP ['G', 'P', 'Y', 'O'] ['G', 'Y', 'R', 'P'] (by decide) (by decide)).trans (by decide)) (by decide) pe78 rfl nx78 (by decide) (by decide) (by decide)).trans ?_
  refine Eq.trans (step_lift ['G', 'Y', 'R', 'P'] (?_ : loopRun (honest ['G', 'P', 'Y', 'O']) 5 (some ['G', 'B', 'P', 'Y']) E78 [['B', 'G', 'O', 'R'], ['G', 'Y', 'R', 'P']] = (RunResult.solved ['G', 'P', 'Y', 'O'] 4, [['G', 'B', 'P', 'Y'], ['G', 'P', 'Y', 'O']]))) rfl
  refine (loopRun_step ['G', 'P', 'Y', 'O'] 5 4 ['G', 'B', 'P', 'Y'] E78 [['B', 'G', 'O', 'R'], ['G', 'Y', 'R', 'P']] 2 1 E119 ['G', 'P', 'Y', 'O'] [['B', 'G', 'O', 'R'], ['G', 'Y', 'R', 'P'], ['G', 'B', 'P', 'Y']] rfl ((calc_eq_fastP ['G', 'P', 'Y', 'O'] ['G', 'B', 'P', 'Y'] (by decide) (by decide)).trans (by decide)) (by decide) pe119 rfl nx119 (by decide) (by decide) (by decide)).trans ?_
  refine Eq.trans (step_lift ['G', 'B', 'P', 'Y'] (?_ : loopRun (honest ['G', 'P', 'Y', 'O']) 4 (some ['G', 'P', 'Y', 'O']) E119 [['B', 'G', 'O', 'R'], ['G', 'Y', 'R', 'P'], ['G', 'B', 'P', 'Y']] = (RunResult.solved ['G', 'P', 'Y', 'O'] 4, [['G', 'P', 'Y', 'O']]))) rfl
  exact loopRun_last ['G', 'P', 'Y', 'O'] 4 3 E119 [['B', 'G', 'O', 'R'], ['G', 'Y', 'R', 'P'], ['G', 'B', 'P', 'Y']] rfl rfl (by decide)

lemma rs119 : loopRun (honest ['G', 'P', 'Y', 'R']) 7 none S0 [] =
    (RunResult.solved ['G', 'P', 'Y', 'R'] 3, [['B', 'G', 'O', 'R'], ['B', 'O', 'Y', 'P'], ['G', 'P', 'Y', 'R']]) := by
  refine (loopRun_none' (honest ['G', 'P', 'Y', 'R']) 7 S0 []).trans ?_
  refine (loopRun_step ['G', 'P', 'Y', 'R'] 7 6 ['B', 'G', 'O', 'R'] S0 [] 1 1 E20 ['B', 'O', 'Y', 'P'] [['B', 'G', 'O', 'R']] rfl ((calc_eq_fastP ['G', 'P', 'Y', 'R'] ['B', 'G', 'O', 'R'] (by decide) (by decide)).trans (by decide)) (by decide) pe20 rfl nx20 (by decide) (by decide) (by decide)).trans ?_
  refine Eq.trans (step_lift ['B', 'G', 'O', 'R'] (?_ : loopRun (honest ['G', 'P', 'Y', 'R']) 6 (some ['B', 'O', 'Y', 'P']) E20 [['B', 'G', 'O', 'R']] = (RunResult.solved ['G', 'P', 'Y', 'R'] 3, [['B', 'O', 'Y', 'P'], ['G', 'P', 'Y', 'R']]))) rfl
  refine (loopRun_step ['G', 'P', 'Y', 'R'] 6 5 ['B', 'O', 'Y', 'P'] E20 [['B', 'G', 'O', 'R']] 1 1 E120 ['G', 'P', 'Y', 'R'] [['B', 'G', 'O', 'R'], ['B', 'O', 'Y', 'P']] rfl ((calc_eq_fastP ['G', 'P', 'Y', 'R'] ['B', 'O', 'Y', 'P'] (by decide) (by decide)).trans (by decide)) (by decide) pe120 rfl nx120 (by decide) (by decide) (by decide)).trans ?_
  refine Eq.trans (step_lift ['B', 'O', 'Y', 'P'] (?_ : loopRun (honest ['G', 'P', 'Y', 'R']) 5 (some ['G', 'P', 'Y', 'R']) E120 [['B', 'G', 'O', 'R'], ['B', 'O', 'Y', 'P']] = (RunResult.solved ['G', 'P', 'Y', 'R'] 3, [['G', 'P', 'Y', 'R']]))) rfl
  exact loopRun_last ['G', 'P', 'Y', 'R'] 5 4 E120 [['B', 'G', 'O', 'R'], ['B', 'O', 'Y', 'P']] rfl rfl (by decide)

lemma rs120 : loopRun (honest ['O', 'B', 'G', 'R']) 7 none S0 [] =
    (RunResult.solved ['O', 'B', 'G', 'R'] 4, [['B', 'G', 'O', 'R'], ['B', 'O', 'R', 'G'], ['G', 'R', 'O', 'B'], ['O', 'B', 'G', 'R']]) := by
  refine (loopRun_none' (honest ['O', 'B', 'G', 'R']) 7 S0 []).trans ?_
  refine (loopRun_step ['O', 'B', 'G', 'R'] 7 6 ['B', 'G', 'O', 'R'] S0 [] 3 1 E16 ['B', 'O', 'R', 'G'] [['B', 'G', 'O', 'R']] rfl ((calc_eq_fastP ['O', 'B', 'G', 'R'] ['B', 'G', 'O', 'R'] (by decide) (by decide)).trans (by decide)) (by decide) pe16 rfl nx16 (by decide) (by decide) (by decide)).trans ?_
  refine Eq.trans (step_lift ['B', 'G', 'O', 'R'] (?_ : loopRun (honest ['O', 'B', 'G', 'R']) 6 (some ['B', 'O', 'R', 'G']) E16 [['B', 'G', 'O', 'R']] = (RunResult.solved ['O', 'B', 'G', 'R'] 4, [['B', 'O', 'R', 'G'], ['G', 'R', 'O', 'B'], ['O', 'B', 'G', 'R']]))) rfl
  refine (loopRun_step ['O', 'B', 'G', 'R'] 6 5 ['B', 'O', 'R', 'G'] E16 [['B', 'G', 'O', 'R']] 4 0 E92 ['G', 'R', 'O', 'B'] [['B', 'G', 'O', 'R'], ['B', 'O', 'R', 'G']] rfl ((calc_eq_fastP ['O', 'B', 'G', 'R'] ['B', 'O', 'R', 'G'] (by decide) (by decide)).trans (by decide)) (by decide) pe92 rfl nx92 (by decide) (by decide) (by decide)).trans ?_
  refine Eq.trans (step_lift ['B', 'O', 'R', 'G'] (?_ : loopRun (honest ['O', 'B', 'G', 'R']) 5 (some ['G', 'R', 'O', 'B']) E92 [['B', 'G', 'O', 'R'], ['B', 'O', 'R', 'G']] = (RunResult.solved ['O', 'B', 'G', 'R'] 4, [['G', 'R', 'O', 'B'], ['O', 'B', 'G', 'R']]))) rfl
  refine (loopRun_step ['O', 'B', 'G', 'R'] 5 4 ['G', 'R', 'O', 'B'] E92 [['B', 'G', 'O', 'R'], ['B', 'O', 'R', 'G']] 4 0 E121 ['O', 'B', 'G', 'R'] [['B', 'G', 'O', 'R'], ['B', 'O', 'R', 'G'], ['G', 'R', 'O', 'B']] rfl ((calc_eq_fastP ['O', 'B', 'G', 'R'] ['G', 'R', 'O', 'B'] (by decide) (by decide)).trans (by decide)) (by decide) pe121 rfl nx121 (by decide) (by decide) (by decide)).trans ?_
  refine Eq.trans (step_lift ['G', 'R', 'O', 'B'] (?_ : loopRun (honest ['O', 'B', 'G', 'R']) 4 (some ['O', 'B', 'G', 'R']) E121 [['B', 'G', 'O', 'R'], ['B', 'O', 'R', 'G'], ['G', 'R', 'O', 'B']] = (RunResult.solved ['O', 'B', 'G', 'R'] 4, [['O', 'B', 'G', 'R']]))) rfl
  exact loopRun_last ['O', 'B', 'G', 'R'] 4 3 E121 [['B', 'G', 'O', 'R'], ['B', 'O', 'R', 'G'], ['G', 'R', 'O', 'B']] rfl rfl (by decide)

lemma rs121 : loopRun (honest ['O', 'B', 'G', 'Y']) 7 none S0 [] =
    (RunResult.solved ['O', 'B', 'G', 'Y'] 4, [['B', 'G', 'O', 'R'], ['G', 'O', 'R', 'Y'], ['G', 'B', 'Y', 'O'], ['O', 'B', 'G', 'Y']]) := by
  refine (loopRun_none' (honest ['O', 'B', 'G', 'Y']) 7 S0 []).trans ?_
  refine (loopRun_step ['O', 'B', 'G', 'Y'] 7 6 ['B', 'G', 'O', 'R'] S0 [] 3 0 E65 ['G', 'O', 'R', 'Y'] [['B', 'G', 'O', 'R']] rfl ((calc_eq_fastP ['O', 'B', 'G', 'Y'] ['B', 'G', 'O', 'R'] (by decide) (by decide)).trans (by decide)) (by decide) pe65 rfl nx65 (by decide) (by decide) (by decide)).trans ?_
  refine Eq.trans (step_lift ['B', 'G', 'O', 'R'] (?_ : loopRun (honest ['O', 'B', 'G', 'Y']) 6 (some ['G', 'O', 'R', 'Y']) E65 [['B', 'G', 'O', 'R']] = (RunResult.solved ['O', 'B', 'G', 'Y'] 4, [['G', 'O', 'R', 'Y'], ['G', 'B', 'Y', 'O'], ['O', 'B', 'G', 'Y']]))) rfl
  refine (loopRun_step ['O', 'B', 'G', 'Y'] 6 5 ['G', 'O', 'R', 'Y'] E65 [['B', 'G', 'O', 'R']] 2 1 E68 ['G', 'B', 'Y', 'O'] [['B', 'G', 'O', 'R'], ['G', 'O', 'R', 'Y']] rfl ((calc_eq_fastP ['O', 'B', 'G', 'Y'] ['G', 'O', 'R', 'Y'] (by decide) (by decide)).trans (by decide)) (by decide) pe68 rfl nx68 (by decide) (by decide) (by decide)).trans ?_
  refine Eq.trans (step_lift ['G', 'O', 'R', 'Y'] (?_ : loopRun (honest ['O', 'B', 'G', 'Y']) 5 (some ['G', 'B', 'Y', 'O']) E68 [['B', 'G', 'O', 'R'], ['G', 'O', 'R', 'Y']] = (RunResult.solved ['O', 'B', 'G', 'Y'] 4, [['G', 'B', 'Y', 'O'], ['O', 'B', 'G', 'Y']]))) rfl
  refine (loopRun_step ['O', 'B', 'G', 'Y'] 5 4 ['G', 'B', 'Y', 'O'] E68 [['B', 'G', 'O', 'R'], ['G', 'O', 'R', 'Y']] 3 1 [['O', 'B', 'G', 'Y']] ['O', 'B', 'G', 'Y'] [['B', 'G', 'O', 'R'], ['G', 'O', 'R', 'Y'], ['G', 'B', 'Y', 'O']] rfl ((calc_eq_fastP ['O', 'B', 'G', 'Y'] ['G', 'B', 'Y', 'O'] (by decide) (by decide)).trans (by decide)) (by decide) pe122 rfl (findNextGuess_singleton ['O', 'B', 'G', 'Y'] [['B', 'G', 'O', 'R'], ['G', 'O', 'R', 'Y'], ['G', 'B', 'Y', 'O']]) (by decide) (by decide) (by decide)).trans ?_
  refine Eq.trans (step_lift ['G', 'B', 'Y', 'O'] (?_ : loopRun (honest ['O', 'B', 'G', 'Y']) 4 (some ['O', 'B', 'G', 'Y']) [['O', 'B', 'G', 'Y']] [['B', 'G', 'O', 'R'], ['G', 'O', 'R', 'Y'], ['G', 'B', 'Y', 'O']] = (RunResult.solved ['O', 'B', 'G', 'Y'] 4, [['O', 'B', 'G', 'Y']]))) rfl
  exact loopRun_last ['O', 'B', 'G', 'Y'] 4 3 [['O', 'B', 'G', 'Y']] [['B', 'G', 'O', 'R'], ['G', 'O', 'R', 'Y'], ['G', 'B', 'Y', 'O']] rfl rfl (by decide)

lemma rs122 : loopRun (honest ['O', 'B', 'G', 'P']) 7 none S0 [] =
    (RunResult.solved ['O', 'B', 'G', 'P'] 4, [['B', 'G', 'O', 'R'], ['G', 'O', 'R', 'Y'], ['O', 'B', 'P', 'G'], ['O', 'B', 'G', 'P']]) := by
  refine (loopRun_none' (honest ['O', 'B', 'G', 'P']) 7 S0 []).trans ?_
  refine (loopRun_step ['O', 'B', 'G', 'P'] 7 6 ['B', 'G', 'O', 'R'] S0 [] 3 0 E65 ['G', 'O', 'R', 'Y'] [['B', 'G', 'O', 'R']] rfl ((calc_eq_fastP ['O', 'B', 'G', 'P'] ['B', 'G', 'O', 'R'] (by decide) (by decide)).trans (by decide)) (by decide) pe65 rfl nx65 (by decide) (by decide) (by decide)).trans ?_
  refine Eq.trans (step_lift ['B', 'G', 'O', 'R'] (?_ : loopRun (honest ['O', 'B', 'G', 'P']) 6 (some ['G', 'O', 'R', 'Y']) E65 [['B', 'G', 'O', 'R']] = (RunResult.solved ['O', 'B', 'G', 'P'] 4, [['G', 'O', 'R', 'Y'], ['O', 'B', 'P', 'G'], ['O', 'B', 'G', 'P']]))) rfl
  refine (loopRun_step ['O', 'B', 'G', 'P'] 6 5 ['G', 'O', 'R', 'Y'] E65 [['B', 'G', 'O', 'R']] 2 0 E123 ['O', 'B', 'P', 'G'] [['B', 'G', 'O', 'R'], ['G', 'O', 'R', 'Y']] rfl ((calc_eq_fastP ['O', 'B', 'G', 'P'] ['G', 'O', 'R', 'Y'] (by decide) (by decide)).trans (by decide)) (by decide) pe123 rfl nx123 (by decide) (by decide) (by decide)).trans ?_
  refine Eq.trans (step_lift ['G', 'O', 'R', 'Y'] (?_ : loopRun (honest ['O', 'B', 'G', 'P']) 5 (some ['O', 'B', 'P', 'G']) E123 [['B', 'G', 'O', 'R'], ['G', 'O', 'R', 'Y']] = (RunResult.solved ['O', 'B', 'G', 'P'] 4, [['O', 'B', 'P', 'G'], ['O', 'B', 'G', 'P']]))) rfl
  refine (loopRun_step ['O', 'B', 'G', 'P'] 5 4 ['O', 'B', 'P', 'G'] E123 [['B', 'G', 'O', 'R'], ['G', 'O', 'R', 'Y']] 2 2 E124 ['O', 'B', 'G', 'P'] [['B', 'G', 'O', 'R'], ['G', 'O', 'R', 'Y'], ['O', 'B', 'P', 'G']] rfl ((calc_eq_fastP ['O', 'B', 'G', 'P'] ['O', 'B', 'P', 'G'] (by decide) (by decide)).trans (by decide)) (by decide) pe124 rfl nx124 (by decide) (by decide) (by decide)).trans ?_
  refine Eq.trans (step_lift ['O', 'B', 'P', 'G'] (?_ : loopRun (honest ['O', 'B', 'G', 'P']) 4 (some ['O', 'B', 'G', 'P']) E124 [['B', 'G', 'O', 'R'], ['G', 'O', 'R', 'Y'], ['O', 'B', 'P', 'G']] = (RunResult.solved ['O', 'B', 'G', 'P'] 4, [['O', 'B', 'G', 'P']]))) rfl
  exact loopRun_last ['O', 'B', 'G', 'P'] 4 3 E124 [['B', 'G', 'O', 'R'], ['G', 'O', 'R', 'Y'], ['O', 'B', 'P', 'G']] rfl rfl (by decide)

lemma rs123 : loopRun (honest ['O', 'B', 'R', 'G']) 7 none S0 [] =
    (RunResult.solved ['O', 'B', 'R', 'G'] 5, [['B', 'G', 'O', 'R'], ['G', 'B', 'R', 'O'], ['G', 'O', 'R', 'B'], ['G', 'R', 'B', 'O'], ['O', 'B', 'R', 'G']]) := by
  refine (loopRun_none' (honest ['O', 'B', 'R', 'G']) 7 S0 []).trans ?_
  refine (loopRun_step ['O', 'B', 'R', 'G'] 7 6 ['B', 'G', 'O', 'R'] S0 [] 4 0 E64 ['G', 'B', 'R', 'O'] [['B', 'G', 'O', 'R']] rfl ((calc_eq_fastP ['O', 'B', 'R', 'G'] ['B', 'G', 'O', 'R'] (by decide) (by decide)).trans (by decide)) (by decide) pe64 rfl nx64 (by decide) (by decide) (by decide)).trans ?_
  refine Eq.trans (step_lift ['B', 'G', 'O', 'R'] (?_ : loopRun (honest ['O', 'B', 'R', 'G']) 6 (some ['G', 'B', 'R', 'O']) E64 [['B', 'G', 'O', 'R']] = (RunResult.solved ['O', 'B', 'R', 'G'] 5, [['G', 'B', 'R', 'O'], ['G', 'O', 'R', 'B'], ['G', 'R', 'B', 'O'], ['O', 'B', 'R', 'G']]))) rfl
  refine (loopRun_step ['O', 'B', 'R', 'G'] 6 5 ['G', 'B', 'R', 'O'] E64 [['B', 'G', 'O', 'R']] 2 2 E82 ['G', 'O', 'R', 'B'] [['B', 'G', 'O', 'R'], ['G', 'B', 'R', 'O']] rfl ((calc_eq_fastP ['O', 'B', 'R', 'G'] ['G', 'B', 'R', 'O'] (by decide) (by decide)).trans (by decide)) (by decide) pe82 rfl nx82 (by decide) (by decide) (by decide)).trans ?_
  refine Eq.trans (step_lift ['G', 'B', 'R', 'O'] (?_ : loopRun (honest ['O', 'B', 'R', 'G']) 5 (some ['G', 'O', 'R', 'B']) E82 [['B', 'G', 'O', 'R'], ['G', 'B', 'R', 'O']] = (RunResult.solved ['O', 'B', 'R', 'G'] 5, [['G', 'O', 'R', 'B'], ['G', 'R', 'B', 'O'], ['O', 'B', 'R', 'G']]))) rfl
  refine (loopRun_step ['O', 'B', 'R', 'G'] 5 4 ['G', 'O', 'R', 'B'] E82 [['B', 'G', 'O', 'R'], ['G', 'B', 'R', 'O']] 3 1 E89 ['G', 'R', 'B', 'O'] [['B', 'G', 'O', 'R'], ['G', 'B', 'R', 'O'], ['G', 'O', 'R', 'B']] rfl ((calc_eq_fastP ['O', 'B', 'R', 'G'] ['G', 'O', 'R', 'B'] (by decide) (by decide)).trans (by decide)) (by decide) pe89 rfl nx89 (by decide) (by decide) (by decide)).trans ?_
  refine Eq.trans (step_lift ['G', 'O', 'R', 'B'] (?_ : loopRun (honest ['O', 'B', 'R', 'G']) 4 (some ['G', 'R', 'B', 'O']) E89 [['B', 'G', 'O', 'R'], ['G', 'B', 'R', 'O'], ['G', 'O', 'R', 'B']] = (RunResult.solved ['O', 'B', 'R', 'G'] 5, [['G', 'R', 'B', 'O'], ['O', 'B', 'R', 'G']]))) rfl
  refine (loopRun_step ['O', 'B', 'R', 'G'] 4 3 ['G', 'R', 'B', 'O'] E89 [['B', 'G', 'O', 'R'], ['G', 'B', 'R', 'O'], ['G', 'O', 'R', 'B']] 4 0 [['O', 'B', 'R', 'G']] ['O', 'B', 'R', 'G'] [['B', 'G', 'O', 'R'], ['G', 'B', 'R', 'O'], ['G', 'O', 'R', 'B'], ['G', 'R', 'B', 'O']] rfl ((calc_eq_fastP ['O', 'B', 'R', 'G'] ['G', 'R', 'B', 'O'] (by decide) (by decide)).trans (by decide)) (by decide) pe125 rfl (findNextGuess_singleton ['O', 'B', 'R', 'G'] [['B', 'G', 'O', 'R'], ['G', 'B', 'R', 'O'], ['G', 'O', 'R', 'B'], ['G', 'R', 'B', 'O']]) (by decide) (by decide) (by decide)).trans ?_
  refine Eq.trans (step_lift ['G', 'R', 'B', 'O'] (?_ : loopRun (honest ['O', 'B', 'R', 'G']) 3 (some ['O', 'B', 'R', 'G']) [['O', 'B', 'R', 'G']] [['B', 'G', 'O', 'R'], ['G', 'B', 'R', 'O'], ['G', 'O', 'R', 'B'], ['G', 'R', 'B', 'O']] = (RunResult.solved ['O', 'B', 'R', 'G'] 5, [['O', 'B', 'R', 'G']]))) rfl
  exact loopRun_last ['O', 'B', 'R', 'G'] 3 2 [['O', 'B', 'R', 'G']] [['B', 'G', 'O', 'R'], ['G', 'B', 'R', 'O'], ['G', 'O', 'R', 'B'], ['G', 'R', 'B', 'O']] rfl rfl (by decide)

lemma rs124 : loopRun (honest ['O', 'B', 'R', 'Y']) 7 none S0 [] =
    (RunResult.solved ['O', 'B', 'R', 'Y'] 4, [['B', 'G', 'O', 'R'], ['G', 'O', 'R', 'Y'], ['G', 'O', 'Y', 'B'], ['O', 'B', 'R', 'Y']]) := by
  refine (loopRun_none' (honest ['O', 'B', 'R', 'Y']) 7 S0 []).trans ?_
  refine (loopRun_step ['O', 'B', 'R', 'Y'] 7 6 ['B', 'G', 'O', 'R'] S0 [] 3 0 E65 ['G', 'O', 'R', 'Y'] [['B', 'G', 'O', 'R']] rfl ((calc_eq_fastP ['O', 'B', 'R', 'Y'] ['B', 'G', 'O', 'R'] (by decide) (by decide)).trans (by decide)) (by decide) pe65 rfl nx65 (by decide) (by decide) (by decide)).trans ?_
  refine Eq.trans (step_lift ['B', 'G', 'O', 'R'] (?_ : loopRun (honest ['O', 'B', 'R', 'Y']) 6 (some ['G', 'O', 'R', 'Y']) E65 [['B', 'G', 'O', 'R']] = (RunResult.solved ['O', 'B', 'R', 'Y'] 4, [['G', 'O', 'R', 'Y'], ['G', 'O', 'Y', 'B'], ['O', 'B', 'R', 'Y']]))) rfl
  refine (loopRun_step ['O', 'B', 'R', 'Y'] 6 5 ['G', 'O', 'R', 'Y'] E65 [['B', 'G', 'O', 'R']] 1 2 E84 ['G', 'O', 'Y', 'B'] [['B', 'G', 'O', 'R'], ['G', 'O', 'R', 'Y']] rfl ((calc_eq_fastP ['O', 'B', 'R', 'Y'] ['G', 'O', 'R', 'Y'] (by decide) (by decide)).trans (by decide)) (by decide) pe84 rfl nx84 (by decide) (by decide) (by decide)).trans ?_
  refine Eq.trans (step_lift ['G', 'O', 'R', 'Y'] (?_ : loopRun (honest ['O', 'B', 'R', 'Y']) 5 (some ['G', 'O', 'Y', 'B']) E84 [['B', 'G', 'O', 'R'], ['G', 'O', 'R', 'Y']] = (RunResult.solved ['O', 'B', 'R', 'Y'] 4, [['G', 'O', 'Y', 'B'], ['O', 'B', 'R', 'Y']]))) rfl
  refine (loopRun_step ['O', 'B', 'R', 'Y'] 5 4 ['G', 'O', 'Y', 'B'] E84 [['B', 'G', 'O', 'R'], ['G', 'O', 'R', 'Y']] 3 0 [['O', 'B', 'R', 'Y']] ['O', 'B', 'R', 'Y'] [['B', 'G', 'O', 'R'], ['G', 'O', 'R', 'Y'], ['G', 'O', 'Y', 'B']] rfl ((calc_eq_fastP ['O', 'B', 'R', 'Y'] ['G', 'O', 'Y', 'B'] (by decide) (by decide)).trans (by decide)) (by decide) pe126 rfl (findNextGuess_singleton ['O', 'B', 'R', 'Y'] [['B', 'G', 'O', 'R'], ['G', 'O', 'R', 'Y'], ['G', 'O', 'Y', 'B']]) (by decide) (by decide) (by decide)).trans ?_
  refine Eq.trans (step_lift ['G', 'O', 'Y', 'B'] (?_ : loopRun (honest ['O', 'B', 'R', 'Y']) 4 (some ['O', 'B', 'R', 'Y']) [['O', 'B', 'R', 'Y']] [['B', 'G', 'O', 'R'], ['G', 'O', 'R', 'Y'], ['G', 'O', 'Y', 'B']] = (RunResult.solved ['O', 'B', 'R', 'Y'] 4, [['O', 'B', 'R', 'Y']]))) rfl
  exact loopRun_last ['O', 'B', 'R', 'Y'] 4 3 [['O', 'B', 'R', 'Y']] [['B', 'G', 'O', 'R'], ['G', 'O', 'R', 'Y'], ['G', 'O', 'Y', 'B']] rfl rfl (by decide)

lemma rs125 : loopRun (honest ['O', 'B', 'R', 'P']) 7 none S0 [] =
    (RunResult.solved ['O', 'B', 'R', 'P'] 4, [['B', 'G', 'O', 'R'], ['G', 'O', 'R', 'Y'], ['R', 'O', 'B', 'P'], ['O', 'B', 'R', 'P']]) := by
  refine (loopRun_none' (honest ['O', 'B', 'R', 'P']) 7 S0 []).trans ?_
  refine (loopRun_step ['O', 'B', 'R', 'P'] 7 6 ['B', 'G', 'O', 'R'] S0 [] 3 0 E65 ['G', 'O', 'R', 'Y'] [['B', 'G', 'O', 'R']] rfl ((calc_eq_fastP ['O', 'B', 'R', 'P'] ['B', 'G', 'O', 'R'] (by decide) (by decide)).trans (by decide)) (by decide) pe65 rfl nx65 (by decide) (by decide) (by decide)).trans ?_
  refine Eq.trans (step_lift ['B', 'G', 'O', 'R'] (?_ : loopRun (honest ['O', 'B', 'R', 'P']) 6 (some ['G', 'O', 'R', 'Y']) E65 [['B', 'G', 'O', 'R']] = (RunResult.solved ['O', 'B', 'R', 'P'] 4, [['G', 'O', 'R', 'Y'], ['R', 'O', 'B', 'P'], ['O', 'B', 'R', 'P']]))) rfl
  refine (loopRun_step ['O', 'B', 'R', 'P'] 6 5 ['G', 'O', 'R', 'Y'] E65 [['B', 'G', 'O', 'R']] 1 1 E75 ['R', 'O', 'B', 'P'] [['B', 'G', 'O', 'R'], ['G', 'O', 'R', 'Y']] rfl ((calc_eq_fastP ['O', 'B', 'R', 'P'] ['G', 'O', 'R', 'Y'] (by decide) (by decide)).trans (by decide)) (by decide) pe75 rfl nx75 (by decide) (by decide) (by decide)).trans ?_
  refine Eq.trans (step_lift ['G', 'O', 'R', 'Y'] (?_ : loopRun (honest ['O', 'B', 'R', 'P']) 5 (some ['R', 'O', 'B', 'P']) E75 [['B', 'G', 'O', 'R'], ['G', 'O', 'R', 'Y']] = (RunResult.solved ['O', 'B', 'R', 'P'] 4, [['R', 'O', 'B', 'P'], ['O', 'B', 'R', 'P']]))) rfl
  refine (loopRun_step ['O', 'B', 'R', 'P'] 5 4 ['R', 'O', 'B', 'P'] E75 [['B', 'G', 'O', 'R'], ['G', 'O', 'R', 'Y']] 3 1 [['O', 'B', 'R', 'P']] ['O', 'B', 'R', 'P'] [['B', 'G', 'O', 'R'], ['G', 'O', 'R', 'Y'], ['R', 'O', 'B', 'P']] rfl ((calc_eq_fastP ['O', 'B', 'R', 'P'] ['R', 'O', 'B', 'P'] (by decide) (by decide)).trans (by decide)) (by decide) pe127 rfl (findNextGuess_singleton ['O', 'B', 'R', 'P'] [['B', 'G', 'O', 'R'], ['G', 'O', 'R', 'Y'], ['R', 'O', 'B', 'P']]) (by decide) (by decide) (by decide)).trans ?_
  refine Eq.trans (step_lift ['R', 'O', 'B', 'P'] (?_ : loopRun (honest ['O', 'B', 'R', 'P']) 4 (some ['O', 'B', 'R', 'P']) [['O', 'B', 'R', 'P']] [['B', 'G', 'O', 'R'], ['G', 'O', 'R', 'Y'], ['R', 'O', 'B', 'P']] = (RunResult.solved ['O', 'B', 'R', 'P'] 4, [['O', 'B', 'R', 'P']]))) rfl
  exact loopRun_last ['O', 'B', 'R', 'P'] 4 3 [['O', 'B', 'R', 'P']] [['B', 'G', 'O', 'R'], ['G', 'O', 'R', 'Y'], ['R', 'O', 'B', 'P']] rfl rfl (by decide)

lemma rs126 : loopRun (honest ['O', 'B', 'Y', 'G']) 7 none S0 [] =
    (RunResult.solved ['O', 'B', 'Y', 'G'] 3, [['B', 'G', 'O', 'R'], ['G', 'O', 'R', 'Y'], ['O', 'B', 'Y', 'G']]) := by
  refine (loopRun_none' (honest ['O', 'B', 'Y', 'G']) 7 S0 []).trans ?_
  refine (loopRun_step ['O', 'B', 'Y', 'G'] 7 6 ['B', 'G', 'O', 'R'] S0 [] 3 0 E65 ['G', 'O', 'R', 'Y'] [['B', 'G', 'O', 'R']] rfl ((calc_eq_fastP ['O', 'B', 'Y', 'G'] ['B', 'G', 'O', 'R'] (by decide) (by decide)).trans (by decide)) (by decide) pe65 rfl nx65 (by decide) (by decide) (by decide)).trans ?_
  refine Eq.trans (step_lift ['B', 'G', 'O', 'R'] (?_ : loopRun (honest ['O', 'B', 'Y', 'G']) 6 (some ['G', 'O', 'R', 'Y']) E65 [['B', 'G', 'O', 'R']] = (RunResult.solved ['O', 'B', 'Y', 'G'] 3, [['G', 'O', 'R', 'Y'], ['O', 'B', 'Y', 'G']]))) rfl
  refine (loopRun_step ['O', 'B', 'Y', 'G'] 6 5 ['G', 'O', 'R', 'Y'] E65 [['B', 'G', 'O', 'R']] 3 0 E128 ['O', 'B', 'Y', 'G'] [['B', 'G', 'O', 'R'], ['G', 'O', 'R', 'Y']] rfl ((calc_eq_fastP ['O', 'B', 'Y', 'G'] ['G', 'O', 'R', 'Y'] (by decide) (by decide)).trans (by decide)) (by decide) pe128 rfl nx128 (by decide) (by decide) (by decide)).trans ?_
  refine Eq.trans (step_lift ['G', 'O', 'R', 'Y'] (?_ : loopRun (honest ['O', 'B', 'Y', 'G']) 5 (some ['O', 'B', 'Y', 'G']) E128 [['B', 'G', 'O', 'R'], ['G', 'O', 'R', 'Y']] = (RunResult.solved ['O', 'B', 'Y', 'G'] 3, [['O', 'B', 'Y', 'G']]))) rfl
  exact loopRun_last ['O', 'B', 'Y', 'G'] 5 4 E128 [['B', 'G', 'O', 'R'], ['G', 'O', 'R', 'Y']] rfl rfl (by decide)

lemma rs127 : loopRun (honest ['O', 'B', 'Y', 'R']) 7 none S0 [] =
    (RunResult.solved ['O', 'B', 'Y', 'R'] 4, [['B', 'G', 'O', 'R'], ['B', 'O', 'R', 'Y'], ['O', 'Y', 'B', 'R'], ['O', 'B', 'Y', 'R']]) := by
  refine (loopRun_none' (honest ['O', 'B', 'Y', 'R']) 7 S0 []).trans ?_
  refine (loopRun_step ['O', 'B', 'Y', 'R'] 7 6 ['B', 'G', 'O', 'R'] S0 [] 2 1 E13 ['B', 'O', 'R', 'Y'] [['B', 'G', 'O', 'R']] rfl ((calc_eq_fastP ['O', 'B', 'Y', 'R'] ['B', 'G', 'O', 'R'] (by decide) (by decide)).trans (by decide)) (by decide) pe13 rfl nx13 (by decide) (by decide) (by decide)).trans ?_
  refine Eq.trans (step_lift ['B', 'G', 'O', 'R'] (?_ : loopRun (honest ['O', 'B', 'Y', 'R']) 6 (some ['B', 'O', 'R', 'Y']) E13 [['B', 'G', 'O', 'R']] = (RunResult.solved ['O', 'B', 'Y', 'R'] 4, [['B', 'O', 'R', 'Y'], ['O', 'Y', 'B', 'R'], ['O', 'B', 'Y', 'R']]))) rfl
  refine (loopRun_step ['O', 'B', 'Y', 'R'] 6 5 ['B', 'O', 'R', 'Y'] E13 [['B', 'G', 'O', 'R']] 4 0 E129 ['O', 'Y', 'B', 'R'] [['B', 'G', 'O', 'R'], ['B', 'O', 'R', 'Y']] rfl ((calc_eq_fastP ['O', 'B', 'Y', 'R'] ['B', 'O', 'R', 'Y'] (by decide) (by decide)).trans (by decide)) (by decide) pe129 rfl nx129 (by decide) (by decide) (by decide)).trans ?_
  refine Eq.trans (step_lift ['B', 'O', 'R', 'Y'] (?_ : loopRun (honest ['O', 'B', 'Y', 'R']) 5 (some ['O', 'Y', 'B', 'R']) E129 [['B', 'G', 'O', 'R'], ['B', 'O', 'R', 'Y']] = (RunResult.solved ['O', 'B', 'Y', 'R'] 4, [['O', 'Y', 'B', 'R'], ['O', 'B', 'Y', 'R']]))) rfl
  refine (loopRun_step ['O', 'B', 'Y', 'R'] 5 4 ['O', 'Y', 'B', 'R'] E129 [['B', 'G', 'O', 'R'], ['B', 'O', 'R', 'Y']] 2 2 [['O', 'B', 'Y', 'R']] ['O', 'B', 'Y', 'R'] [['B', 'G', 'O', 'R'], ['B', 'O', 'R', 'Y'], ['O', 'Y', 'B', 'R']] rfl ((calc_eq_fastP ['O', 'B', 'Y', 'R'] ['O', 'Y', 'B', 'R'] (by decide) (by decide)).trans (by decide)) (by decide) pe130 rfl (findNextGuess_singleton ['O', 'B', 'Y', 'R'] [['B', 'G', 'O', 'R'], ['B', 'O', 'R', 'Y'], ['O', 'Y', 'B', 'R']]) (by decide) (by decide) (by decide)).trans ?_
  refine Eq.trans (step_lift ['O', 'Y', 'B', 'R'] (?_ : loopRun (honest ['O', 'B', 'Y', 'R']) 4 (some ['O', 'B', 'Y', 'R']) [['O', 'B', 'Y', 'R']] [['B', 'G', 'O', 'R'], ['B', 'O', 'R', 'Y'], ['O', 'Y', 'B', 'R']] = (RunResult.solved ['O', 'B', 'Y', 'R'] 4, [['O', 'B', 'Y', 'R']]))) rfl
  exact loopRun_last ['O', 'B', 'Y', 'R'] 4 3 [['O', 'B', 'Y', 'R']] [['B', 'G', 'O', 'R'], ['B', 'O', 'R', 'Y'], ['O', 'Y', 'B', 'R']] rfl rfl (by decide)

lemma rs128 : loopRun (honest ['O', 'B', 'Y', 'P']) 7 none S0 [] =
    (RunResult.solved ['O', 'B', 'Y', 'P'] 3, [['B', 'G', 'O', 'R'], ['G', 'Y', 'R', 'P'], ['O', 'B', 'Y', 'P']]) := by
  refine (loopRun_none' (honest ['O', 'B', 'Y', 'P']) 7 S0 []).trans ?_
  refine (loopRun_step ['O', 'B', 'Y', 'P'] 7 6 ['B', 'G', 'O', 'R'] S0 [] 2 0 E72 ['G', 'Y', 'R', 'P'] [['B', 'G', 'O', 'R']] rfl ((calc_eq_fastP ['O', 'B', 'Y', 'P'] ['B', 'G', 'O', 'R'] (by decide) (by decide)).trans (by decide)) (by decide) pe72 rfl nx72 (by decide) (by decide) (by decide)).trans ?_
  refine Eq.trans (step_lift ['B', 'G', 'O', 'R'] (?_ : loopRun (honest ['O', 'B', 'Y', 'P']) 6 (some ['G', 'Y', 'R', 'P']) E72 [['B', 'G', 'O', 'R']] = (RunResult.solved ['O', 'B', 'Y', 'P'] 3, [['G', 'Y', 'R', 'P'], ['O', 'B', 'Y', 'P']]))) rfl
  refine (loopRun_step ['O', 'B', 'Y', 'P'] 6 5 ['G', 'Y', 'R', 'P'] E72 [['B', 'G', 'O', 'R']] 1 1 E131 ['O', 'B', 'Y', 'P'] [['B', 'G', 'O', 'R'], ['G', 'Y', 'R', 'P']] rfl ((calc_eq_fastP ['O', 'B', 'Y', 'P'] ['G', 'Y', 'R', 'P'] (by decide) (by decide)).trans (by decide)) (by decide) pe131 rfl nx131 (by decide) (by decide) (by decide)).trans ?_
  refine Eq.trans (step_lift ['G', 'Y', 'R', 'P'] (?_ : loopRun (honest ['O', 'B', 'Y', 'P']) 5 (some ['O', 'B', 'Y', 'P']) E131 [['B', 'G', 'O', 'R'], ['G', 'Y', 'R', 'P']] = (RunResult.solved ['O', 'B', 'Y', 'P'] 3, [['O', 'B', 'Y', 'P']]))) rfl
  exact loopRun_last ['O', 'B', 'Y', 'P'] 5 4 E131 [['B', 'G', 'O', 'R'], ['G', 'Y', 'R', 'P']] rfl rfl (by decide)

lemma rs129 : loopRun (honest ['O', 'B', 'P', 'G']) 7 none S0 [] =
    (RunResult.solved ['O', 'B', 'P', 'G'] 3, [['B', 'G', 'O', 'R'], ['G', 'O', 'R', 'Y'], ['O', 'B', 'P', 'G']]) := by
  refine (loopRun_none' (honest ['O', 'B', 'P', 'G']) 7 S0 []).trans ?_
  refine (loopRun_step ['O', 'B', 'P', 'G'] 7 6 ['B', 'G', 'O', 'R'] S0 [] 3 0 E65 ['G', 'O', 'R', 'Y'] [['B', 'G', 'O', 'R']] rfl ((calc_eq_fastP ['O', 'B', 'P', 'G'] ['B', 'G', 'O', 'R'] (by decide) (by decide)).trans (by decide)) (by decide) pe65 rfl nx65 (by decide) (by decide) (by decide)).trans ?_
  refine Eq.trans (step_lift ['B', 'G', 'O', 'R'] (?_ : loopRun (honest ['O', 'B', 'P', 'G']) 6 (some ['G', 'O', 'R', 'Y']) E65 [['B', 'G', 'O', 'R']] = (RunResult.solved ['O', 'B', 'P', 'G'] 3, [['G', 'O', 'R', 'Y'], ['O', 'B', 'P', 'G']]))) rfl
  refine (loopRun_step ['O', 'B', 'P', 'G'] 6 5 ['G', 'O', 'R', 'Y'] E65 [['B', 'G', 'O', 'R']] 2 0 E123 ['O', 'B', 'P', 'G'] [['B', 'G', 'O', 'R'], ['G', 'O', 'R', 'Y']] rfl ((calc_eq_fastP ['O', 'B', 'P', 'G'] ['G', 'O', 'R', 'Y'] (by decide) (by decide)).trans (by decide)) (by decide) pe123 rfl nx123 (by decide) (by decide) (by decide)).trans ?_
  refine Eq.trans (step_lift ['G', 'O', 'R', 'Y'] (?_ : loopRun (honest ['O', 'B', 'P', 'G']) 5 (some ['O', 'B', 'P', 'G']) E123 [['B', 'G', 'O', 'R'], ['G', 'O', 'R', 'Y']] = (RunResult.solved ['O', 'B', 'P', 'G'] 3, [['O', 'B', 'P', 'G']]))) rfl
  exact loopRun_last ['O', 'B', 'P', 'G'] 5 4 E123 [['B', 'G', 'O', 'R'], ['G', 'O', 'R', 'Y']] rfl rfl (by decide)

lemma rs130 : loopRun (honest ['O', 'B', 'P', 'R']) 7 none S0 [] =
    (RunResult.solved ['O', 'B', 'P', 'R'] 4, [['B', 'G', 'O', 'R'], ['B', 'O', 'R', 'Y'], ['O', 'Y', 'G', 'R'], ['O', 'B', 'P', 'R']]) := by
  refine (loopRun_none' (honest ['O', 'B', 'P', 'R']) 7 S0 []).trans ?_
  refine (loopRun_step ['O', 'B', 'P', 'R'] 7 6 ['B', 'G', 'O', 'R'] S0 [] 2 1 E13 ['B', 'O', 'R', 'Y'] [['B', 'G', 'O', 'R']] rfl ((calc_eq_fastP ['O', 'B', 'P', 'R'] ['B', 'G', 'O', 'R'] (by decide) (by decide)).trans (by decide)) (by decide) pe13 rfl nx13 (by decide) (by decide) (by decide)).trans ?_
  refine Eq.trans (step_lift ['B', 'G', 'O', 'R'] (?_ : loopRun (honest ['O', 'B', 'P', 'R']) 6 (some ['B', 'O', 'R', 'Y']) E13 [['B', 'G', 'O', 'R']] = (RunResult.solved ['O', 'B', 'P', 'R'] 4, [['B', 'O', 'R', 'Y'], ['O', 'Y', 'G', 'R'], ['O', 'B', 'P', 'R']]))) rfl
  refine (loopRun_step ['O', 'B', 'P', 'R'] 6 5 ['B', 'O', 'R', 'Y'] E13 [['B', 'G', 'O', 'R']] 3 0 E69 ['O', 'Y', 'G', 'R'] [['B', 'G', 'O', 'R'], ['B', 'O', 'R', 'Y']] rfl ((calc_eq_fastP ['O', 'B', 'P', 'R'] ['B', 'O', 'R', 'Y'] (by decide) (by decide)).trans (by decide)) (by decide) pe69 rfl nx69 (by decide) (by decide) (by decide)).trans ?_
  refine Eq.trans (step_lift ['B', 'O', 'R', 'Y'] (?_ : loopRun (honest ['O', 'B', 'P', 'R']) 5 (some ['O', 'Y', 'G', 'R']) E69 [['B', 'G', 'O', 'R'], ['B', 'O', 'R', 'Y']] = (RunResult.solved ['O', 'B', 'P', 'R'] 4, [['O', 'Y', 'G', 'R'], ['O', 'B', 'P', 'R']]))) rfl
  refine (loopRun_step ['O', 'B', 'P', 'R'] 5 4 ['O', 'Y', 'G', 'R'] E69 [['B', 'G', 'O', 'R'], ['B', 'O', 'R', 'Y']] 0 2 E132 ['O', 'B', 'P', 'R'] [['B', 'G', 'O', 'R'], ['B', 'O', 'R', 'Y'], ['O', 'Y', 'G', 'R']] rfl ((calc_eq_fastP ['O', 'B', 'P', 'R'] ['O', 'Y', 'G', 'R'] (by decide) (by decide)).trans (by decide)) (by decide) pe132 rfl nx132 (by decide) (by decide) (by decide)).trans ?_
  refine Eq.trans (step_lift ['O', 'Y', 'G', 'R'] (?_ : loopRun (honest ['O', 'B', 'P', 'R']) 4 (some ['O', 'B', 'P', 'R']) E132 [['B', 'G', 'O', 'R'], ['B', 'O', 'R', 'Y'], ['O', 'Y', 'G', 'R']] = (RunResult.solved ['O', 'B', 'P', 'R'] 4, [['O', 'B', 'P', 'R']]))) rfl
  exact loopRun_last ['O', 'B', 'P', 'R'] 4 3 E132 [['B', 'G', 'O', 'R'], ['B', 'O', 'R', 'Y'], ['O', 'Y', 'G', 'R']] rfl rfl (by decide)

lemma rs131 : loopRun (honest ['O', 'B', 'P', 'Y']) 7 none S0 [] =
    (RunResult.solved ['O', 'B', 'P', 'Y'] 3, [['B', 'G', 'O', 'R'], ['G', 'Y', 'R', 'P'], ['O', 'B', 'P', 'Y']]) := by
  refine (loopRun_none' (honest ['O', 'B', 'P', 'Y']) 7 S0 []).trans ?_
  refine (loopRun_step ['O', 'B', 'P', 'Y'] 7 6 ['B', 'G', 'O', 'R'] S0 [] 2 0 E72 ['G', 'Y', 'R', 'P'] [['B', 'G', 'O', 'R']] rfl ((calc_eq_fastP ['O', 'B', 'P', 'Y'] ['B', 'G', 'O', 'R'] (by decide) (by decide)).trans (by decide)) (by decide) pe72 rfl nx72 (by decide) (by decide) (by decide)).trans ?_
  refine Eq.trans (step_lift ['B', 'G', 'O', 'R'] (?_ : loopRun (honest ['O', 'B', 'P', 'Y']) 6 (some ['G', 'Y', 'R', 'P']) E72 [['B', 'G', 'O', 'R']] = (RunResult.solved ['O', 'B', 'P', 'Y'] 3, [['G', 'Y', 'R', 'P'], ['O', 'B', 'P', 'Y']]))) rfl
  refine (loopRun_step ['O', 'B', 'P', 'Y'] 6 5 ['G', 'Y', 'R', 'P'] E72 [['B', 'G', 'O', 'R']] 2 0 E133 ['O', 'B', 'P', 'Y'] [['B', 'G', 'O', 'R'], ['G', 'Y', 'R', 'P']] rfl ((calc_eq_fastP ['O', 'B', 'P', 'Y'] ['G', 'Y', 'R', 'P'] (by decide) (by decide)).trans (by decide)) (by decide) pe133 rfl nx133 (by decide) (by decide) (by decide)).trans ?_
  refine Eq.trans (step_lift ['G', 'Y', 'R', 'P'] (?_ : loopRun (honest ['O', 'B', 'P', 'Y']) 5 (some ['O', 'B', 'P', 'Y']) E133 [['B', 'G', 'O', 'R'], ['G', 'Y', 'R', 'P']] = (RunResult.solved ['O', 'B', 'P', 'Y'] 3, [['O', 'B', 'P', 'Y']]))) rfl
  exact loopRun_last ['O', 'B', 'P', 'Y'] 5 4 E133 [['B', 'G', 'O', 'R'], ['G', 'Y', 'R', 'P']] rfl rfl (by decide)

lemma rs132 : loopRun (honest ['O', 'G', 'B', 'R']) 7 none S0 [] =
    (RunResult.solved ['O', 'G', 'B', 'R'] 5, [['B', 'G', 'O', 'R'], ['B', 'G', 'R', 'O'], ['B', 'O', 'G', 'R'], ['B', 'R', 'O', 'G'], ['O', 'G', 'B', 'R']]) := by
  refine (loopRun_none' (honest ['O', 'G', 'B', 'R']) 7 S0 []).trans ?_
  refine (loopRun_step ['O', 'G', 'B', 'R'] 7 6 ['B', 'G', 'O', 'R'] S0 [] 2 2 E2 ['B', 'G', 'R', 'O'] [['B', 'G', 'O', 'R']] rfl ((calc_eq_fastP ['O', 'G', 'B', 'R'] ['B', 'G', 'O', 'R'] (by decide) (by decide)).trans (by decide)) (by decide) pe2 rfl nx2 (by decide) (by decide) (by decide)).trans ?_
  refine Eq.trans (step_lift ['B', 'G', 'O', 'R'] (?_ : loopRun (honest ['O', 'G', 'B', 'R']) 6 (some ['B', 'G', 'R', 'O']) E2 [['B', 'G', 'O', 'R']] = (RunResult.solved ['O', 'G', 'B', 'R'] 5, [['B', 'G', 'R', 'O'], ['B', 'O', 'G', 'R'], ['B', 'R', 'O', 'G'], ['O', 'G', 'B', 'R']]))) rfl
  refine (loopRun_step ['O', 'G', 'B', 'R'] 6 5 ['B', 'G', 'R', 'O'] E2 [['B', 'G', 'O', 'R']] 3 1 E12 ['B', 'O', 'G', 'R'] [['B', 'G', 'O', 'R'], ['B', 'G', 'R', 'O']] rfl ((calc_eq_fastP ['O', 'G', 'B', 'R'] ['B', 'G', 'R', 'O'] (by decide) (by decide)).trans (by decide)) (by decide) pe12 rfl nx12 (by decide) (by decide) (by decide)).trans ?_
  refine Eq.trans (step_lift ['B', 'G', 'R', 'O'] (?_ : loopRun (honest ['O', 'G', 'B', 'R']) 5 (some ['B', 'O', 'G', 'R']) E12 [['B', 'G', 'O', 'R'], ['B', 'G', 'R', 'O']] = (RunResult.solved ['O', 'G', 'B', 'R'] 5, [['B', 'O', 'G', 'R'], ['B', 'R', 'O', 'G'], ['O', 'G', 'B', 'R']]))) rfl
  refine (loopRun_step ['O', 'G', 'B', 'R'] 5 4 ['B', 'O', 'G', 'R'] E12 [['B', 'G', 'O', 'R'], ['B', 'G', 'R', 'O']] 3 1 E27 ['B', 'R', 'O', 'G'] [['B', 'G', 'O', 'R'], ['B', 'G', 'R', 'O'], ['B', 'O', 'G', 'R']] rfl ((calc_eq_fastP ['O', 'G', 'B', 'R'] ['B', 'O', 'G', 'R'] (by decide) (by decide)).trans (by decide)) (by decide) pe27 rfl nx27 (by decide) (by decide) (by decide)).trans ?_
  refine Eq.trans (step_lift ['B', 'O', 'G', 'R'] (?_ : loopRun (honest ['O', 'G', 'B', 'R']) 4 (some ['B', 'R', 'O', 'G']) E27 [['B', 'G', 'O', 'R'], ['B', 'G', 'R', 'O'], ['B', 'O', 'G', 'R']] = (RunResult.solved ['O', 'G', 'B', 'R'] 5, [['B', 'R', 'O', 'G'], ['O', 'G', 'B', 'R']]))) rfl
  refine (loopRun_step ['O', 'G', 'B', 'R'] 4 3 ['B', 'R', 'O', 'G'] E27 [['B', 'G', 'O', 'R'], ['B', 'G', 'R', 'O'], ['B', 'O', 'G', 'R']] 4 0 [['O', 'G', 'B', 'R']] ['O', 'G', 'B', 'R'] [['B', 'G', 'O', 'R'], ['B', 'G', 'R', 'O'], ['B', 'O', 'G', 'R'], ['B', 'R', 'O', 'G']] rfl ((calc_eq_fastP ['O', 'G', 'B', 'R'] ['B', 'R', 'O', 'G'] (by decide) (by decide)).trans (by decide)) (by decide) pe134 rfl (findNextGuess_singleton ['O', 'G', 'B', 'R'] [['B', 'G', 'O', 'R'], ['B', 'G', 'R', 'O'], ['B', 'O', 'G', 'R'], ['B', 'R', 'O', 'G']]) (by decide) (by decide) (by decide)).trans ?_
  refine Eq.trans (step_lift ['B', 'R', 'O', 'G'] (?_ : loopRun (honest ['O', 'G', 'B', 'R']) 3 (some ['O', 'G', 'B', 'R']) [['O', 'G', 'B', 'R']] [['B', 'G', 'O', 'R'], ['B', 'G', 'R', 'O'], ['B', 'O', 'G', 'R'], ['B', 'R', 'O', 'G']] = (RunResult.solved ['O', 'G', 'B', 'R'] 5, [['O', 'G', 'B', 'R']]))) rfl
  exact loopRun_last ['O', 'G', 'B', 'R'] 3 2 [['O', 'G', 'B', 'R']] [['B', 'G', 'O', 'R'], ['B', 'G', 'R', 'O'], ['B', 'O', 'G', 'R'], ['B', 'R', 'O', 'G']] rfl rfl (by decide)

lemma rs133 : loopRun (honest ['O', 'G', 'B', 'Y']) 7 none S0 [] =
    (RunResult.solved ['O', 'G', 'B', 'Y'] 5, [['B', 'G', 'O', 'R'], ['B', 'O', 'R', 'Y'], ['G', 'R', 'O', 'Y'], ['B', 'R', 'Y', 'G'], ['O', 'G', 'B', 'Y']]) := by
  refine (loopRun_none' (honest ['O', 'G', 'B', 'Y']) 7 S0 []).trans ?_
  refine (loopRun_step ['O', 'G', 'B', 'Y'] 7 6 ['B', 'G', 'O', 'R'] S0 [] 2 1 E13 ['B', 'O', 'R', 'Y'] [['B', 'G', 'O', 'R']] rfl ((calc_eq_fastP ['O', 'G', 'B', 'Y'] ['B', 'G', 'O', 'R'] (by decide) (by decide)).trans (by decide)) (by decide) pe13 rfl nx13 (by decide) (by decide) (by decide)).trans ?_
  refine Eq.trans (step_lift ['B', 'G', 'O', 'R'] (?_ : loopRun (honest ['O', 'G', 'B', 'Y']) 6 (some ['B', 'O', 'R', 'Y']) E13 [['B', 'G', 'O', 'R']] = (RunResult.solved ['O', 'G', 'B', 'Y'] 5, [['B', 'O', 'R', 'Y'], ['G', 'R', 'O', 'Y'], ['B', 'R', 'Y', 'G'], ['O', 'G', 'B', 'Y']]))) rfl
  refine (loopRun_step ['O', 'G', 'B', 'Y'] 6 5 ['B', 'O', 'R', 'Y'] E13 [['B', 'G', 'O', 'R']] 2 1 E29 ['G', 'R', 'O', 'Y'] [['B', 'G', 'O', 'R'], ['B', 'O', 'R', 'Y']] rfl ((calc_eq_fastP ['O', 'G', 'B', 'Y'] ['B', 'O', 'R', 'Y'] (by decide) (by decide)).trans (by decide)) (by decide) pe29 rfl nx29 (by decide) (by decide) (by decide)).trans ?_
  refine Eq.trans (step_lift ['B', 'O', 'R', 'Y'] (?_ : loopRun (honest ['O', 'G', 'B', 'Y']) 5 (some ['G', 'R', 'O', 'Y']) E29 [['B', 'G', 'O', 'R'], ['B', 'O', 'R', 'Y']] = (RunResult.solved ['O', 'G', 'B', 'Y'] 5, [['G', 'R', 'O', 'Y'], ['B', 'R', 'Y', 'G'], ['O', 'G', 'B', 'Y']]))) rfl
  refine (loopRun_step ['O', 'G', 'B', 'Y'] 5 4 ['G', 'R', 'O', 'Y'] E29 [['B', 'G', 'O', 'R'], ['B', 'O', 'R', 'Y']] 2 1 E30 ['B', 'R', 'Y', 'G'] [['B', 'G', 'O', 'R'], ['B', 'O', 'R', 'Y'], ['G', 'R', 'O', 'Y']] rfl ((calc_eq_fastP ['O', 'G', 'B', 'Y'] ['G', 'R', 'O', 'Y'] (by decide) (by decide)).trans (by decide)) (by decide) pe30 rfl nx30 (by decide) (by decide) (by decide)).trans ?_
  refine Eq.trans (step_lift ['G', 'R', 'O', 'Y'] (?_ : loopRun (honest ['O', 'G', 'B', 'Y']) 4 (some ['B', 'R', 'Y', 'G']) E30 [['B', 'G', 'O', 'R'], ['B', 'O', 'R', 'Y'], ['G', 'R', 'O', 'Y']] = (RunResult.solved ['O', 'G', 'B', 'Y'] 5, [['B', 'R', 'Y', 'G'], ['O', 'G', 'B', 'Y']]))) rfl
  refine (loopRun_step ['O', 'G', 'B', 'Y'] 4 3 ['B', 'R', 'Y', 'G'] E30 [['B', 'G', 'O', 'R'], ['B', 'O', 'R', 'Y'], ['G', 'R', 'O', 'Y']] 3 0 [['O', 'G', 'B', 'Y']] ['O', 'G', 'B', 'Y'] [['B', 'G', 'O', 'R'], ['B', 'O', 'R', 'Y'], ['G', 'R', 'O', 'Y'], ['B', 'R', 'Y', 'G']] rfl ((calc_eq_fastP ['O', 'G', 'B', 'Y'] ['B', 'R', 'Y', 'G'] (by decide) (by decide)).trans (by decide)) (by decide) pe135 rfl (findNextGuess_singleton ['O', 'G', 'B', 'Y'] [['B', 'G', 'O', 'R'], ['B', 'O', 'R', 'Y'], ['G', 'R', 'O', 'Y'], ['B', 'R', 'Y', 'G']]) (by decide) (by decide) (by decide)).trans ?_
  refine Eq.trans (step_lift ['B', 'R', 'Y', 'G'] (?_ : loopRun (honest ['O', 'G', 'B', 'Y']) 3 (some ['O', 'G', 'B', 'Y']) [['O', 'G', 'B', 'Y']] [['B', 'G', 'O', 'R'], ['B', 'O', 'R', 'Y'], ['G', 'R', 'O', 'Y'], ['B', 'R', 'Y', 'G']] = (RunResult.solved ['O', 'G', 'B', 'Y'] 5, [['O', 'G', 'B', 'Y']]))) rfl
  exact loopRun_last ['O', 'G', 'B', 'Y'] 3 2 [['O', 'G', 'B', 'Y']] [['B', 'G', 'O', 'R'], ['B', 'O', 'R', 'Y'], ['G', 'R', 'O', 'Y'], ['B', 'R', 'Y', 'G']] rfl rfl (by decide)

lemma rs134 : loopRun (honest ['O', 'G', 'B', 'P']) 7 none S0 [] =
    (RunResult.solved ['O', 'G', 'B', 'P'] 4, [['B', 'G', 'O', 'R'], ['B', 'O', 'R', 'Y'], ['G', 'P', 'O', 'B'], ['O', 'G', 'B', 'P']]) := by
  refine (loopRun_none' (honest ['O', 'G', 'B', 'P']) 7 S0 []).trans ?_
  refine (loopRun_step ['O', 'G', 'B', 'P'] 7 6 ['B', 'G', 'O', 'R'] S0 [] 2 1 E13 ['B', 'O', 'R', 'Y'] [['B', 'G', 'O', 'R']] rfl ((calc_eq_fastP ['O', 'G', 'B', 'P'] ['B', 'G', 'O', 'R'] (by decide) (by decide)).trans (by decide)) (by decide) pe13 rfl nx13 (by decide) (by decide) (by decide)).trans ?_
  refine Eq.trans (step_lift ['B', 'G', 'O', 'R'] (?_ : loopRun (honest ['O', 'G', 'B', 'P']) 6 (some ['B', 'O', 'R', 'Y']) E13 [['B', 'G', 'O', 'R']] = (RunResult.solved ['O', 'G', 'B', 'P'] 4, [['B', 'O', 'R', 'Y'], ['G', 'P', 'O', 'B'], ['O', 'G', 'B', 'P']]))) rfl
  refine (loopRun_step ['O', 'G', 'B', 'P'] 6 5 ['B', 'O', 'R', 'Y'] E13 [['B', 'G', 'O', 'R']] 2 0 E62 ['G', 'P', 'O', 'B'] [['B', 'G', 'O', 'R'], ['B', 'O', 'R', 'Y']] rfl ((calc_eq_fastP ['O', 'G', 'B', 'P'] ['B', 'O', 'R', 'Y'] (by decide) (by decide)).trans (by decide)) (by decide) pe62 rfl nx62 (by decide) (by decide) (by decide)).trans ?_
  refine Eq.trans (step_lift ['B', 'O', 'R', 'Y'] (?_ : loopRun (honest ['O', 'G', 'B', 'P']) 5 (some ['G', 'P', 'O', 'B']) E62 [['B', 'G', 'O', 'R'], ['B', 'O', 'R', 'Y']] = (RunResult.solved ['O', 'G', 'B', 'P'] 4, [['G', 'P', 'O', 'B'], ['O', 'G', 'B', 'P']]))) rfl
  refine (loopRun_step ['O', 'G', 'B', 'P'] 5 4 ['G', 'P', 'O', 'B'] E62 [['B', 'G', 'O', 'R'], ['B', 'O', 'R', 'Y']] 4 0 E136 ['O', 'G', 'B', 'P'] [['B', 'G', 'O', 'R'], ['B', 'O', 'R', 'Y'], ['G', 'P', 'O', 'B']] rfl ((calc_eq_fastP ['O', 'G', 'B', 'P'] ['G', 'P', 'O', 'B'] (by decide) (by decide)).trans (by decide)) (by decide) pe136 rfl nx136 (by decide) (by decide) (by decide)).trans ?_
  refine Eq.trans (step_lift ['G', 'P', 'O', 'B'] (?_ : loopRun (honest ['O', 'G', 'B', 'P']) 4 (some ['O', 'G', 'B', 'P']) E136 [['B', 'G', 'O', 'R'], ['B', 'O', 'R', 'Y'], ['G', 'P', 'O', 'B']] = (RunResult.solved ['O', 'G', 'B', 'P'] 4, [['O', 'G', 'B', 'P']]))) rfl
  exact loopRun_last ['O', 'G', 'B', 'P'] 4 3 E136 [['B', 'G', 'O', 'R'], ['B', 'O', 'R', 'Y'], ['G', 'P', 'O', 'B']] rfl rfl (by decide)

lemma rs135 : loopRun (honest ['O', 'G', 'R', 'B']) 7 none S0 [] =
    (RunResult.solved ['O', 'G', 'R', 'B'] 5, [['B', 'G', 'O', 'R'], ['B', 'O', 'R', 'G'], ['B', 'R', 'G', 'O'], ['G', 'O', 'B', 'R'], ['O', 'G', 'R', 'B']]) := by
  refine (loopRun_none' (honest ['O', 'G', 'R', 'B']) 7 S0 []).trans ?_
  refine (loopRun_step ['O', 'G', 'R', 'B'] 7 6 ['B', 'G', 'O', 'R'] S0 [] 3 1 E16 ['B', 'O', 'R', 'G'] [['B', 'G', 'O', 'R']] rfl ((calc_eq_fastP ['O', 'G', 'R', 'B'] ['B', 'G', 'O', 'R'] (by decide) (by decide)).trans (by decide)) (by decide) pe16 rfl nx16 (by decide) (by decide) (by decide)).trans ?_
  refine Eq.trans (step_lift ['B', 'G', 'O', 'R'] (?_ : loopRun (honest ['O', 'G', 'R', 'B']) 6 (some ['B', 'O', 'R', 'G']) E16 [['B', 'G', 'O', 'R']] = (RunResult.solved ['O', 'G', 'R', 'B'] 5, [['B', 'O', 'R', 'G'], ['B', 'R', 'G', 'O'], ['G', 'O', 'B', 'R'], ['O', 'G', 'R', 'B']]))) rfl
  refine (loopRun_step ['O', 'G', 'R', 'B'] 6 5 ['B', 'O', 'R', 'G'] E16 [['B', 'G', 'O', 'R']] 3 1 E24 ['B', 'R', 'G', 'O'] [['B', 'G', 'O', 'R'], ['B', 'O', 'R', 'G']] rfl ((calc_eq_fastP ['O', 'G', 'R', 'B'] ['B', 'O', 'R', 'G'] (by decide) (by decide)).trans (by decide)) (by decide) pe24 rfl nx24 (by decide) (by decide) (by decide)).trans ?_
  refine Eq.trans (step_lift ['B', 'O', 'R', 'G'] (?_ : loopRun (honest ['O', 'G', 'R', 'B']) 5 (some ['B', 'R', 'G', 'O']) E24 [['B', 'G', 'O', 'R'], ['B', 'O', 'R', 'G']] = (RunResult.solved ['O', 'G', 'R', 'B'] 5, [['B', 'R', 'G', 'O'], ['G', 'O', 'B', 'R'], ['O', 'G', 'R', 'B']]))) rfl
  refine (loopRun_step ['O', 'G', 'R', 'B'] 5 4 ['B', 'R', 'G', 'O'] E24 [['B', 'G', 'O', 'R'], ['B', 'O', 'R', 'G']] 4 0 E79 ['G', 'O', 'B', 'R'] [['B', 'G', 'O', 'R'], ['B', 'O', 'R', 'G'], ['B', 'R', 'G', 'O']] rfl ((calc_eq_fastP ['O', 'G', 'R', 'B'] ['B', 'R', 'G', 'O'] (by decide) (by decide)).trans (by decide)) (by decide) pe79 rfl nx79 (by decide) (by decide) (by decide)).trans ?_
  refine Eq.trans (step_lift ['B', 'R', 'G', 'O'] (?_ : loopRun (honest ['O', 'G', 'R', 'B']) 4 (some ['G', 'O', 'B', 'R']) E79 [['B', 'G', 'O', 'R'], ['B', 'O', 'R', 'G'], ['B', 'R', 'G', 'O']] = (RunResult.solved ['O', 'G', 'R', 'B'] 5, [['G', 'O', 'B', 'R'], ['O', 'G', 'R', 'B']]))) rfl
  refine (loopRun_step ['O', 'G', 'R', 'B'] 4 3 ['G', 'O', 'B', 'R'] E79 [['B', 'G', 'O', 'R'], ['B', 'O', 'R', 'G'], ['B', 'R', 'G', 'O']] 4 0 E137 ['O', 'G', 'R', 'B'] [['B', 'G', 'O', 'R'], ['B', 'O', 'R', 'G'], ['B', 'R', 'G', 'O'], ['G', 'O', 'B', 'R']] rfl ((calc_eq_fastP ['O', 'G', 'R', 'B'] ['G', 'O', 'B', 'R'] (by decide) (by decide)).trans (by decide)) (by decide) pe137 rfl nx137 (by decide) (by decide) (by decide)).trans ?_
  refine Eq.trans (step_lift ['G', 'O', 'B', 'R'] (?_ : loopRun (honest ['O', 'G', 'R', 'B']) 3 (some ['O', 'G', 'R', 'B']) E137 [['B', 'G', 'O', 'R'], ['B', 'O', 'R', 'G'], ['B', 'R', 'G', 'O'], ['G', 'O', 'B', 'R']] = (RunResult.solved ['O', 'G', 'R', 'B'] 5, [['O', 'G', 'R', 'B']]))) rfl
  exact loopRun_last ['O', 'G', 'R', 'B'] 3 2 E137 [['B', 'G', 'O', 'R'], ['B', 'O', 'R', 'G'], ['B', 'R', 'G', 'O'], ['G', 'O', 'B', 'R']] rfl rfl (by decide)

lemma rs136 : loopRun (honest ['O', 'G', 'R', 'Y']) 7 none S0 [] =
    (RunResult.solved ['O', 'G', 'R', 'Y'] 4, [['B', 'G', 'O', 'R'], ['B', 'O', 'R', 'Y'], ['B', 'O', 'Y', 'G'], ['O', 'G', 'R', 'Y']]) := by
  refine (loopRun_none' (honest ['O', 'G', 'R', 'Y']) 7 S0 []).trans ?_
  refine (loopRun_step ['O', 'G', 'R', 'Y'] 7 6 ['B', 'G', 'O', 'R'] S0 [] 2 1 E13 ['B', 'O', 'R', 'Y'] [['B', 'G', 'O', 'R']] rfl ((calc_eq_fastP ['O', 'G', 'R', 'Y'] ['B', 'G', 'O', 'R'] (by decide) (by decide)).trans (by decide)) (by decide) pe13 rfl nx13 (by decide) (by decide) (by decide)).trans ?_
  refine Eq.trans (step_lift ['B', 'G', 'O', 'R'] (?_ : loopRun (honest ['O', 'G', 'R', 'Y']) 6 (some ['B', 'O', 'R', 'Y']) E13 [['B', 'G', 'O', 'R']] = (RunResult.solved ['O', 'G', 'R', 'Y'] 4, [['B', 'O', 'R', 'Y'], ['B', 'O', 'Y', 'G'], ['O', 'G', 'R', 'Y']]))) rfl
  refine (loopRun_step ['O', 'G', 'R', 'Y'] 6 5 ['B', 'O', 'R', 'Y'] E13 [['B', 'G', 'O', 'R']] 1 2 E18 ['B', 'O', 'Y', 'G'] [['B', 'G', 'O', 'R'], ['B', 'O', 'R', 'Y']] rfl ((calc_eq_fastP ['O', 'G', 'R', 'Y'] ['B', 'O', 'R', 'Y'] (by decide) (by decide)).trans (by decide)) (by decide) pe18 rfl nx18 (by decide) (by decide) (by decide)).trans ?_
  refine Eq.trans (step_lift ['B', 'O', 'R', 'Y'] (?_ : loopRun (honest ['O', 'G', 'R', 'Y']) 5 (some ['B', 'O', 'Y', 'G']) E18 [['B', 'G', 'O', 'R'], ['B', 'O', 'R', 'Y']] = (RunResult.solved ['O', 'G', 'R', 'Y'] 4, [['B', 'O', 'Y', 'G'], ['O', 'G', 'R', 'Y']]))) rfl
  refine (loopRun_step ['O', 'G', 'R', 'Y'] 5 4 ['B', 'O', 'Y', 'G'] E18 [['B', 'G', 'O', 'R'], ['B', 'O', 'R', 'Y']] 3 0 [['O', 'G', 'R', 'Y']] ['O', 'G', 'R', 'Y'] [['B', 'G', 'O', 'R'], ['B', 'O', 'R', 'Y'], ['B', 'O', 'Y', 'G']] rfl ((calc_eq_fastP ['O', 'G', 'R', 'Y'] ['B', 'O', 'Y', 'G'] (by decide) (by decide)).trans (by decide)) (by decide) pe138 rfl (findNextGuess_singleton ['O', 'G', 'R', 'Y'] [['B', 'G', 'O', 'R'], ['B', 'O', 'R', 'Y'], ['B', 'O', 'Y', 'G']]) (by decide) (by decide) (by decide)).trans ?_
  refine Eq.trans (step_lift ['B', 'O', 'Y', 'G'] (?_ : loopRun (honest ['O', 'G', 'R', 'Y']) 4 (some ['O', 'G', 'R', 'Y']) [['O', 'G', 'R', 'Y']] [['B', 'G', 'O', 'R'], ['B', 'O', 'R', 'Y'], ['B', 'O', 'Y', 'G']] = (RunResult.solved ['O', 'G', 'R', 'Y'] 4, [['O', 'G', 'R', 'Y']]))) rfl
  exact loopRun_last ['O', 'G', 'R', 'Y'] 4 3 [['O', 'G', 'R', 'Y']] [['B', 'G', 'O', 'R'], ['B', 'O', 'R', 'Y'], ['B', 'O', 'Y', 'G']] rfl rfl (by decide)

lemma rs137 : loopRun (honest ['O', 'G', 'R', 'P']) 7 none S0 [] =
    (RunResult.solved ['O', 'G', 'R', 'P'] 4, [['B', 'G', 'O', 'R'], ['B', 'O', 'R', 'Y'], ['B', 'R', 'G', 'P'], ['O', 'G', 'R', 'P']]) := by
  refine (loopRun_none' (honest ['O', 'G', 'R', 'P']) 7 S0 []).trans ?_
  refine (loopRun_step ['O', 'G', 'R', 'P'] 7 6 ['B', 'G', 'O', 'R'] S0 [] 2 1 E13 ['B', 'O', 'R', 'Y'] [['B', 'G', 'O', 'R']] rfl ((calc_eq_fastP ['O', 'G', 'R', 'P'] ['B', 'G', 'O', 'R'] (by decide) (by decide)).trans (by decide)) (by decide) pe13 rfl nx13 (by decide) (by decide) (by decide)).trans ?_
  refine Eq.trans (step_lift ['B', 'G', 'O', 'R'] (?_ : loopRun (honest ['O', 'G', 'R', 'P']) 6 (some ['B', 'O', 'R', 'Y']) E13 [['B', 'G', 'O', 'R']] = (RunResult.solved ['O', 'G', 'R', 'P'] 4, [['B', 'O', 'R', 'Y'], ['B', 'R', 'G', 'P'], ['O', 'G', 'R', 'P']]))) rfl
  refine (loopRun_step ['O', 'G', 'R', 'P'] 6 5 ['B', 'O', 'R', 'Y'] E13 [['B', 'G', 'O', 'R']] 1 1 E26 ['B', 'R', 'G', 'P'] [['B', 'G', 'O', 'R'], ['B', 'O', 'R', 'Y']] rfl ((calc_eq_fastP ['O', 'G', 'R', 'P'] ['B', 'O', 'R', 'Y'] (by decide) (by decide)).trans (by decide)) (by decide) pe26 rfl nx26 (by decide) (by decide) (by decide)).trans ?_
  refine Eq.trans (step_lift ['B', 'O', 'R', 'Y'] (?_ : loopRun (honest ['O', 'G', 'R', 'P']) 5 (some ['B', 'R', 'G', 'P']) E26 [['B', 'G', 'O', 'R'], ['B', 'O', 'R', 'Y']] = (RunResult.solved ['O', 'G', 'R', 'P'] 4, [['B', 'R', 'G', 'P'], ['O', 'G', 'R', 'P']]))) rfl
  refine (loopRun_step ['O', 'G', 'R', 'P'] 5 4 ['B', 'R', 'G', 'P'] E26 [['B', 'G', 'O', 'R'], ['B', 'O', 'R', 'Y']] 2 1 E139 ['O', 'G', 'R', 'P'] [['B', 'G', 'O', 'R'], ['B', 'O', 'R', 'Y'], ['B', 'R', 'G', 'P']] rfl ((calc_eq_fastP ['O', 'G', 'R', 'P'] ['B', 'R', 'G', 'P'] (by decide) (by decide)).trans (by decide)) (by decide) pe139 rfl nx139 (by decide) (by decide) (by decide)).trans ?_
  refine Eq.trans (step_lift ['B', 'R', 'G', 'P'] (?_ : loopRun (honest ['O', 'G', 'R', 'P']) 4 (some ['O', 'G', 'R', 'P']) E139 [['B', 'G', 'O', 'R'], ['B', 'O', 'R', 'Y'], ['B', 'R', 'G', 'P']] = (RunResult.solved ['O', 'G', 'R', 'P'] 4, [['O', 'G', 'R', 'P']]))) rfl
  exact loopRun_last ['O', 'G', 'R', 'P'] 4 3 E139 [['B', 'G', 'O', 'R'], ['B', 'O', 'R', 'Y'], ['B', 'R', 'G', 'P']] rfl rfl (by decide)

lemma rs138 : loopRun (honest ['O', 'G', 'Y', 'B']) 7 none S0 [] =
    (RunResult.solved ['O', 'G', 'Y', 'B'] 5, [['B', 'G', 'O', 'R'], ['B', 'O', 'R', 'Y'], ['O', 'Y', 'G', 'R'], ['G', 'Y', 'O', 'B'], ['O', 'G', 'Y', 'B']]) := by
  refine (loopRun_none' (honest ['O', 'G', 'Y', 'B']) 7 S0 []).trans ?_
  refine (loopRun_step ['O', 'G', 'Y', 'B'] 7 6 ['B', 'G', 'O', 'R'] S0 [] 2 1 E13 ['B', 'O', 'R', 'Y'] [['B', 'G', 'O', 'R']] rfl ((calc_eq_fastP ['O', 'G', 'Y', 'B'] ['B', 'G', 'O', 'R'] (by decide) (by decide)).trans (by decide)) (by decide) pe13 rfl nx13 (by decide) (by decide) (by decide)).trans ?_
  refine Eq.trans (step_lift ['B', 'G', 'O', 'R'] (?_ : loopRun (honest ['O', 'G', 'Y', 'B']) 6 (some ['B', 'O', 'R', 'Y']) E13 [['B', 'G', 'O', 'R']] = (RunResult.solved ['O', 'G', 'Y', 'B'] 5, [['B', 'O', 'R', 'Y'], ['O', 'Y', 'G', 'R'], ['G', 'Y', 'O', 'B'], ['O', 'G', 'Y', 'B']]))) rfl
  refine (loopRun_step ['O', 'G', 'Y', 'B'] 6 5 ['B', 'O', 'R', 'Y'] E13 [['B', 'G', 'O', 'R']] 3 0 E69 ['O', 'Y', 'G', 'R'] [['B', 'G', 'O', 'R'], ['B', 'O', 'R', 'Y']] rfl ((calc_eq_fastP ['O', 'G', 'Y', 'B'] ['B', 'O', 'R', 'Y'] (by decide) (by decide)).trans (by decide)) (by decide) pe69 rfl nx69 (by decide) (by decide) (by decide)).trans ?_
  refine Eq.trans (step_lift ['B', 'O', 'R', 'Y'] (?_ : loopRun (honest ['O', 'G', 'Y', 'B']) 5 (some ['O', 'Y', 'G', 'R']) E69 [['B', 'G', 'O', 'R'], ['B', 'O', 'R', 'Y']] = (RunResult.solved ['O', 'G', 'Y', 'B'] 5, [['O', 'Y', 'G', 'R'], ['G', 'Y', 'O', 'B'], ['O', 'G', 'Y', 'B']]))) rfl
  refine (loopRun_step ['O', 'G', 'Y', 'B'] 5 4 ['O', 'Y', 'G', 'R'] E69 [['B', 'G', 'O', 'R'], ['B', 'O', 'R', 'Y']] 2 1 E70 ['G', 'Y', 'O', 'B'] [['B', 'G', 'O', 'R'], ['B', 'O', 'R', 'Y'], ['O', 'Y', 'G', 'R']] rfl ((calc_eq_fastP ['O', 'G', 'Y', 'B'] ['O', 'Y', 'G', 'R'] (by decide) (by decide)).trans (by decide)) (by decide) pe70 rfl nx70 (by decide) (by decide) (by decide)).trans ?_
  refine Eq.trans (step_lift ['O', 'Y', 'G', 'R'] (?_ : loopRun (honest ['O', 'G', 'Y', 'B']) 4 (some ['G', 'Y', 'O', 'B']) E70 [['B', 'G', 'O', 'R'], ['B', 'O', 'R', 'Y'], ['O', 'Y', 'G', 'R']] = (RunResult.solved ['O', 'G', 'Y', 'B'] 5, [['G', 'Y', 'O', 'B'], ['O', 'G', 'Y', 'B']]))) rfl
  refine (loopRun_step ['O', 'G', 'Y', 'B'] 4 3 ['G', 'Y', 'O', 'B'] E70 [['B', 'G', 'O', 'R'], ['B', 'O', 'R', 'Y'], ['O', 'Y', 'G', 'R']] 3 1 [['O', 'G', 'Y', 'B']] ['O', 'G', 'Y', 'B'] [['B', 'G', 'O', 'R'], ['B', 'O', 'R', 'Y'], ['O', 'Y', 'G', 'R'], ['G', 'Y', 'O', 'B']] rfl ((calc_eq_fastP ['O', 'G', 'Y', 'B'] ['G', 'Y', 'O', 'B'] (by decide) (by decide)).trans (by decide)) (by decide) pe140 rfl (findNextGuess_singleton ['O', 'G', 'Y', 'B'] [['B', 'G', 'O', 'R'], ['B', 'O', 'R', 'Y'], ['O', 'Y', 'G', 'R'], ['G', 'Y', 'O', 'B']]) (by decide) (by decide) (by decide)).trans ?_
  refine Eq.trans (step_lift ['G', 'Y', 'O', 'B'] (?_ : loopRun (honest ['O', 'G', 'Y', 'B']) 3 (some ['O', 'G', 'Y', 'B']) [['O', 'G', 'Y', 'B']] [['B', 'G', 'O', 'R'], ['B', 'O', 'R', 'Y'], ['O', 'Y', 'G', 'R'], ['G', 'Y', 'O', 'B']] = (RunResult.solved ['O', 'G', 'Y', 'B'] 5, [['O', 'G', 'Y', 'B']]))) rfl
  exact loopRun_last ['O', 'G', 'Y', 'B'] 3 2 [['O', 'G', 'Y', 'B']] [['B', 'G', 'O', 'R'], ['B', 'O', 'R', 'Y'], ['O', 'Y', 'G', 'R'], ['G', 'Y', 'O', 'B']] rfl rfl (by decide)

lemma rs139 : loopRun (honest ['O', 'G', 'Y', 'R']) 7 none S0 [] =
    (RunResult.solved ['O', 'G', 'Y', 'R'] 4, [['B', 'G', 'O', 'R'], ['B', 'G', 'R', 'Y'], ['B', 'O', 'Y', 'R'], ['O', 'G', 'Y', 'R']]) := by
  refine (loopRun_none' (honest ['O', 'G', 'Y', 'R']) 7 S0 []).trans ?_
  refine (loopRun_step ['O', 'G', 'Y', 'R'] 7 6 ['B', 'G', 'O', 'R'] S0 [] 1 2 E3 ['B', 'G', 'R', 'Y'] [['B', 'G', 'O', 'R']] rfl ((calc_eq_fastP ['O', 'G', 'Y', 'R'] ['B', 'G', 'O', 'R'] (by decide) (by decide)).trans (by decide)) (by decide) pe3 rfl nx3 (by decide) (by decide) (by decide)).trans ?_
  refine Eq.trans (step_lift ['B', 'G', 'O', 'R'] (?_ : loopRun (honest ['O', 'G', 'Y', 'R']) 6 (some ['B', 'G', 'R', 'Y']) E3 [['B', 'G', 'O', 'R']] = (RunResult.solved ['O', 'G', 'Y', 'R'] 4, [['B', 'G', 'R', 'Y'], ['B', 'O', 'Y', 'R'], ['O', 'G', 'Y', 'R']]))) rfl
  refine (loopRun_step ['O', 'G', 'Y', 'R'] 6 5 ['B', 'G', 'R', 'Y'] E3 [['B', 'G', 'O', 'R']] 2 1 E19 ['B', 'O', 'Y', 'R'] [['B', 'G', 'O', 'R'], ['B', 'G', 'R', 'Y']] rfl ((calc_eq_fastP ['O', 'G', 'Y', 'R'] ['B', 'G', 'R', 'Y'] (by decide) (by decide)).trans (by decide)) (by decide) pe19 rfl nx19 (by decide) (by decide) (by decide)).trans ?_
  refine Eq.trans (step_lift ['B', 'G', 'R', 'Y'] (?_ : loopRun (honest ['O', 'G', 'Y', 'R']) 5 (some ['B', 'O', 'Y', 'R']) E19 [['B', 'G', 'O', 'R'], ['B', 'G', 'R', 'Y']] = (RunResult.solved ['O', 'G', 'Y', 'R'] 4, [['B', 'O', 'Y', 'R'], ['O', 'G', 'Y', 'R']]))) rfl
  refine (loopRun_step ['O', 'G', 'Y', 'R'] 5 4 ['B', 'O', 'Y', 'R'] E19 [['B', 'G', 'O', 'R'], ['B', 'G', 'R', 'Y']] 1 2 [['O', 'G', 'Y', 'R']] ['O', 'G', 'Y', 'R'] [['B', 'G', 'O', 'R'], ['B', 'G', 'R', 'Y'], ['B', 'O', 'Y', 'R']] rfl ((calc_eq_fastP ['O', 'G', 'Y', 'R'] ['B', 'O', 'Y', 'R'] (by decide) (by decide)).trans (by decide)) (by decide) pe141 rfl (findNextGuess_singleton ['O', 'G', 'Y', 'R'] [['B', 'G', 'O', 'R'], ['B', 'G', 'R', 'Y'], ['B', 'O', 'Y', 'R']]) (by decide) (by decide) (by decide)).trans ?_
  refine Eq.trans (step_lift ['B', 'O', 'Y', 'R'] (?_ : loopRun (honest ['O', 'G', 'Y', 'R']) 4 (some ['O', 'G', 'Y', 'R']) [['O', 'G', 'Y', 'R']] [['B', 'G', 'O', 'R'], ['B', 'G', 'R', 'Y'], ['B', 'O', 'Y', 'R']] = (RunResult.solved ['O', 'G', 'Y', 'R'] 4, [['O', 'G', 'Y', 'R']]))) rfl
  exact loopRun_last ['O', 'G', 'Y', 'R'] 4 3 [['O', 'G', 'Y', 'R']] [['B', 'G', 'O', 'R'], ['B', 'G', 'R', 'Y'], ['B', 'O', 'Y', 'R']] rfl rfl (by decide)

lemma rs140 : loopRun (honest ['O', 'G', 'Y', 'P']) 7 none S0 [] =
    (RunResult.solved ['O', 'G', 'Y', 'P'] 4, [['B', 'G', 'O', 'R'], ['B', 'O', 'Y', 'P'], ['B', 'Y', 'G', 'P'], ['O', 'G', 'Y', 'P']]) := by
  refine (loopRun_none' (honest ['O', 'G', 'Y', 'P']) 7 S0 []).trans ?_
  refine (loopRun_step ['O', 'G', 'Y', 'P'] 7 6 ['B', 'G', 'O', 'R'] S0 [] 1 1 E20 ['B', 'O', 'Y', 'P'] [['B', 'G', 'O', 'R']] rfl ((calc_eq_fastP ['O', 'G', 'Y', 'P'] ['B', 'G', 'O', 'R'] (by decide) (by decide)).trans (by decide)) (by decide) pe20 rfl nx20 (by decide) (by decide) (by decide)).trans ?_
  refine Eq.trans (step_lift ['B', 'G', 'O', 'R'] (?_ : loopRun (honest ['O', 'G', 'Y', 'P']) 6 (some ['B', 'O', 'Y', 'P']) E20 [['B', 'G', 'O', 'R']] = (RunResult.solved ['O', 'G', 'Y', 'P'] 4, [['B', 'O', 'Y', 'P'], ['B', 'Y', 'G', 'P'], ['O', 'G', 'Y', 'P']]))) rfl
  refine (loopRun_step ['O', 'G', 'Y', 'P'] 6 5 ['B', 'O', 'Y', 'P'] E20 [['B', 'G', 'O', 'R']] 1 2 E39 ['B', 'Y', 'G', 'P'] [['B', 'G', 'O', 'R'], ['B', 'O', 'Y', 'P']] rfl ((calc_eq_fastP ['O', 'G', 'Y', 'P'] ['B', 'O', 'Y', 'P'] (by decide) (by decide)).trans (by decide)) (by decide) pe39 rfl nx39 (by decide) (by decide) (by decide)).trans ?_
  refine Eq.trans (step_lift ['B', 'O', 'Y', 'P'] (?_ : loopRun (honest ['O', 'G', 'Y', 'P']) 5 (some ['B', 'Y', 'G', 'P']) E39 [['B', 'G', 'O', 'R'], ['B', 'O', 'Y', 'P']] = (RunResult.solved ['O', 'G', 'Y', 'P'] 4, [['B', 'Y', 'G', 'P'], ['O', 'G', 'Y', 'P']]))) rfl
  refine (loopRun_step ['O', 'G', 'Y', 'P'] 5 4 ['B', 'Y', 'G', 'P'] E39 [['B', 'G', 'O', 'R'], ['B', 'O', 'Y', 'P']] 2 1 [['O', 'G', 'Y', 'P']] ['O', 'G', 'Y', 'P'] [['B', 'G', 'O', 'R'], ['B', 'O', 'Y', 'P'], ['B', 'Y', 'G', 'P']] rfl ((calc_eq_fastP ['O', 'G', 'Y', 'P'] ['B', 'Y', 'G', 'P'] (by decide) (by decide)).trans (by decide)) (by decide) pe142 rfl (findNextGuess_singleton ['O', 'G', 'Y', 'P'] [['B', 'G', 'O', 'R'], ['B', 'O', 'Y', 'P'], ['B', 'Y', 'G', 'P']]) (by decide) (by decide) (by decide)).trans ?_
  refine Eq.trans (step_lift ['B', 'Y', 'G', 'P'] (?_ : loopRun (honest ['O', 'G', 'Y', 'P']) 4 (some ['O', 'G', 'Y', 'P']) [['O', 'G', 'Y', 'P']] [['B', 'G', 'O', 'R'], ['B', 'O', 'Y', 'P'], ['B', 'Y', 'G', 'P']] = (RunResult.solved ['O', 'G', 'Y', 'P'] 4, [['O', 'G', 'Y', 'P']]))) rfl
  exact loopRun_last ['O', 'G', 'Y', 'P'] 4 3 [['O', 'G', 'Y', 'P']] [['B', 'G', 'O', 'R'], ['B', 'O', 'Y', 'P'], ['B', 'Y', 'G', 'P']] rfl rfl (by decide)

lemma rs141 : loopRun (honest ['O', 'G', 'P', 'B']) 7 none S0 [] =
    (RunResult.solved ['O', 'G', 'P', 'B'] 4, [['B', 'G', 'O', 'R'], ['B', 'O', 'R', 'Y'], ['G', 'P', 'O', 'B'], ['O', 'G', 'P', 'B']]) := by
  refine (loopRun_none' (honest ['O', 'G', 'P', 'B']) 7 S0 []).trans ?_
  refine (loopRun_step ['O', 'G', 'P', 'B'] 7 6 ['B', 'G', 'O', 'R'] S0 [] 2 1 E13 ['B', 'O', 'R', 'Y'] [['B', 'G', 'O', 'R']] rfl ((calc_eq_fastP ['O', 'G', 'P', 'B'] ['B', 'G', 'O', 'R'] (by decide) (by decide)).trans (by decide)) (by decide) pe13 rfl nx13 (by decide) (by decide) (by decide)).trans ?_
  refine Eq.trans (step_lift ['B', 'G', 'O', 'R'] (?_ : loopRun (honest ['O', 'G', 'P', 'B']) 6 (some ['B', 'O', 'R', 'Y']) E13 [['B', 'G', 'O', 'R']] = (RunResult.solved ['O', 'G', 'P', 'B'] 4, [['B', 'O', 'R', 'Y'], ['G', 'P', 'O', 'B'], ['O', 'G', 'P', 'B']]))) rfl
  refine (loopRun_step ['O', 'G', 'P', 'B'] 6 5 ['B', 'O', 'R', 'Y'] E13 [['B', 'G', 'O', 'R']] 2 0 E62 ['G', 'P', 'O', 'B'] [['B', 'G', 'O', 'R'], ['B', 'O', 'R', 'Y']] rfl ((calc_eq_fastP ['O', 'G', 'P', 'B'] ['B', 'O', 'R', 'Y'] (by decide) (by decide)).trans (by decide)) (by decide) pe62 rfl nx62 (by decide) (by decide) (by decide)).trans ?_
  refine Eq.trans (step_lift ['B', 'O', 'R', 'Y'] (?_ : loopRun (honest ['O', 'G', 'P', 'B']) 5 (some ['G', 'P', 'O', 'B']) E62 [['B', 'G', 'O', 'R'], ['B', 'O', 'R', 'Y']] = (RunResult.solved ['O', 'G', 'P', 'B'] 4, [['G', 'P', 'O', 'B'], ['O', 'G', 'P', 'B']]))) rfl
  refine (loopRun_step ['O', 'G', 'P', 'B'] 5 4 ['G', 'P', 'O', 'B'] E62 [['B', 'G', 'O', 'R'], ['B', 'O', 'R', 'Y']] 3 1 E143 ['O', 'G', 'P', 'B'] [['B', 'G', 'O', 'R'], ['B', 'O', 'R', 'Y'], ['G', 'P', 'O', 'B']] rfl ((calc_eq_fastP ['O', 'G', 'P', 'B'] ['G', 'P', 'O', 'B'] (by decide) (by decide)).trans (by decide)) (by decide) pe143 rfl nx143 (by decide) (by decide) (by decide)).trans ?_
  refine Eq.trans (step_lift ['G', 'P', 'O', 'B'] (?_ : loopRun (honest ['O', 'G', 'P', 'B']) 4 (some ['O', 'G', 'P', 'B']) E143 [['B', 'G', 'O', 'R'], ['B', 'O', 'R', 'Y'], ['G', 'P', 'O', 'B']] = (RunResult.solved ['O', 'G', 'P', 'B'] 4, [['O', 'G', 'P', 'B']]))) rfl
  exact loopRun_last ['O', 'G', 'P', 'B'] 4 3 E143 [['B', 'G', 'O', 'R'], ['B', 'O', 'R', 'Y'], ['G', 'P', 'O', 'B']] rfl rfl (by decide)

lemma rs142 : loopRun (honest ['O', 'G', 'P', 'R']) 7 none S0 [] =
    (RunResult.solved ['O', 'G', 'P', 'R'] 4, [['B', 'G', 'O', 'R'], ['B', 'G', 'R', 'Y'], ['B', 'O', 'P', 'R'], ['O', 'G', 'P', 'R']]) := by
  refine (loopRun_none' (honest ['O', 'G', 'P', 'R']) 7 S0 []).trans ?_
  refine (loopRun_step ['O', 'G', 'P', 'R'] 7 6 ['B', 'G', 'O', 'R'] S0 [] 1 2 E3 ['B', 'G', 'R', 'Y'] [['B', 'G', 'O', 'R']] rfl ((calc_eq_fastP ['O', 'G', 'P', 'R'] ['B', 'G', 'O', 'R'] (by decide) (by decide)).trans (by decide)) (by decide) pe3 rfl nx3 (by decide) (by decide) (by decide)).trans ?_
  refine Eq.trans (step_lift ['B', 'G', 'O', 'R'] (?_ : loopRun (honest ['O', 'G', 'P', 'R']) 6 (some ['B', 'G', 'R', 'Y']) E3 [['B', 'G', 'O', 'R']] = (RunResult.solved ['O', 'G', 'P', 'R'] 4, [['B', 'G', 'R', 'Y'], ['B', 'O', 'P', 'R'], ['O', 'G', 'P', 'R']]))) rfl
  refine (loopRun_step ['O', 'G', 'P', 'R'] 6 5 ['B', 'G', 'R', 'Y'] E3 [['B', 'G', 'O', 'R']] 1 1 E22 ['B', 'O', 'P', 'R'] [['B', 'G', 'O', 'R'], ['B', 'G', 'R', 'Y']] rfl ((calc_eq_fastP ['O', 'G', 'P', 'R'] ['B', 'G', 'R', 'Y'] (by decide) (by decide)).trans (by decide)) (by decide) pe22 rfl nx22 (by decide) (by decide) (by decide)).trans ?_
  refine Eq.trans (step_lift ['B', 'G', 'R', 'Y'] (?_ : loopRun (honest ['O', 'G', 'P', 'R']) 5 (some ['B', 'O', 'P', 'R']) E22 [['B', 'G', 'O', 'R'], ['B', 'G', 'R', 'Y']] = (RunResult.solved ['O', 'G', 'P', 'R'] 4, [['B', 'O', 'P', 'R'], ['O', 'G', 'P', 'R']]))) rfl
  refine (loopRun_step ['O', 'G', 'P', 'R'] 5 4 ['B', 'O', 'P', 'R'] E22 [['B', 'G', 'O', 'R'], ['B', 'G', 'R', 'Y']] 1 2 [['O', 'G', 'P', 'R']] ['O', 'G', 'P', 'R'] [['B', 'G', 'O', 'R'], ['B', 'G', 'R', 'Y'], ['B', 'O', 'P', 'R']] rfl ((calc_eq_fastP ['O', 'G', 'P', 'R'] ['B', 'O', 'P', 'R'] (by decide) (by decide)).trans (by decide)) (by decide) pe144 rfl (findNextGuess_singleton ['O', 'G', 'P', 'R'] [['B', 'G', 'O', 'R'], ['B', 'G', 'R', 'Y'], ['B', 'O', 'P', 'R']]) (by decide) (by decide) (by decide)).trans ?_
  refine Eq.trans (step_lift ['B', 'O', 'P', 'R'] (?_ : loopRun (honest ['O', 'G', 'P', 'R']) 4 (some ['O', 'G', 'P', 'R']) [['O', 'G', 'P', 'R']] [['B', 'G', 'O', 'R'], ['B', 'G', 'R', 'Y'], ['B', 'O', 'P', 'R']] = (RunResult.solved ['O', 'G', 'P', 'R'] 4, [['O', 'G', 'P', 'R']]))) rfl
  exact loopRun_last ['O', 'G', 'P', 'R'] 4 3 [['O', 'G', 'P', 'R']] [['B', 'G', 'O', 'R'], ['B', 'G', 'R', 'Y'], ['B', 'O', 'P', 'R']] rfl rfl (by decide)

lemma rs143 : loopRun (honest ['O', 'G', 'P', 'Y']) 7 none S0 [] =
    (RunResult.solved ['O', 'G', 'P', 'Y'] 4, [['B', 'G', 'O', 'R'], ['B', 'O', 'Y', 'P'], ['G', 'P', 'O', 'Y'], ['O', 'G', 'P', 'Y']]) := by
  refine (loopRun_none' (honest ['O', 'G', 'P', 'Y']) 7 S0 []).trans ?_
  refine (loopRun_step ['O', 'G', 'P', 'Y'] 7 6 ['B', 'G', 'O', 'R'] S0 [] 1 1 E20 ['B', 'O', 'Y', 'P'] [['B', 'G', 'O', 'R']] rfl ((calc_eq_fastP ['O', 'G', 'P', 'Y'] ['B', 'G', 'O', 'R'] (by decide) (by decide)).trans (by decide)) (by decide) pe20 rfl nx20 (by decide) (by decide) (by decide)).trans ?_
  refine Eq.trans (step_lift ['B', 'G', 'O', 'R'] (?_ : loopRun (honest ['O', 'G', 'P', 'Y']) 6 (some ['B', 'O', 'Y', 'P']) E20 [['B', 'G', 'O', 'R']] = (RunResult.solved ['O', 'G', 'P', 'Y'] 4, [['B', 'O', 'Y', 'P'], ['G', 'P', 'O', 'Y'], ['O', 'G', 'P', 'Y']]))) rfl
  refine (loopRun_step ['O', 'G', 'P', 'Y'] 6 5 ['B', 'O', 'Y', 'P'] E20 [['B', 'G', 'O', 'R']] 3 0 E114 ['G', 'P', 'O', 'Y'] [['B', 'G', 'O', 'R'], ['B', 'O', 'Y', 'P']] rfl ((calc_eq_fastP ['O', 'G', 'P', 'Y'] ['B', 'O', 'Y', 'P'] (by decide) (by decide)).trans (by decide)) (by decide) pe114 rfl nx114 (by decide) (by decide) (by decide)).trans ?_
  refine Eq.trans (step_lift ['B', 'O', 'Y', 'P'] (?_ : loopRun (honest ['O', 'G', 'P', 'Y']) 5 (some ['G', 'P', 'O', 'Y']) E114 [['B', 'G', 'O', 'R'], ['B', 'O', 'Y', 'P']] = (RunResult.solved ['O', 'G', 'P', 'Y'] 4, [['G', 'P', 'O', 'Y'], ['O', 'G', 'P', 'Y']]))) rfl
  refine (loopRun_step ['O', 'G', 'P', 'Y'] 5 4 ['G', 'P', 'O', 'Y'] E114 [['B', 'G', 'O', 'R'], ['B', 'O', 'Y', 'P']] 3 1 E145 ['O', 'G', 'P', 'Y'] [['B', 'G', 'O', 'R'], ['B', 'O', 'Y', 'P'], ['G', 'P', 'O', 'Y']] rfl ((calc_eq_fastP ['O', 'G', 'P', 'Y'] ['G', 'P', 'O', 'Y'] (by decide) (by decide)).trans (by decide)) (by decide) pe145 rfl nx145 (by decide) (by decide) (by decide)).trans ?_
  refine Eq.trans (step_lift ['G', 'P', 'O', 'Y'] (?_ : loopRun (honest ['O', 'G', 'P', 'Y']) 4 (some ['O', 'G', 'P', 'Y']) E145 [['B', 'G', 'O', 'R'], ['B', 'O', 'Y', 'P'], ['G', 'P', 'O', 'Y']] = (RunResult.solved ['O', 'G', 'P', 'Y'] 4, [['O', 'G', 'P', 'Y']]))) rfl
  exact loopRun_last ['O', 'G', 'P', 'Y'] 4 3 E145 [['B', 'G', 'O', 'R'], ['B', 'O', 'Y', 'P'], ['G', 'P', 'O', 'Y']] rfl rfl (by decide)

lemma rs144 : loopRun (honest ['O', 'R', 'B', 'G']) 7 none S0 [] =
    (RunResult.solved ['O', 'R', 'B', 'G'] 3, [['B', 'G', 'O', 'R'], ['G', 'B', 'R', 'O'], ['O', 'R', 'B', 'G']]) := by
  refine (loopRun_none' (honest ['O', 'R', 'B', 'G']) 7 S0 []).trans ?_
  refine (loopRun_step ['O', 'R', 'B', 'G'] 7 6 ['B', 'G', 'O', 'R'] S0 [] 4 0 E64 ['G', 'B', 'R', 'O'] [['B', 'G', 'O', 'R']] rfl ((calc_eq_fastP ['O', 'R', 'B', 'G'] ['B', 'G', 'O', 'R'] (by decide) (by decide)).trans (by decide)) (by decide) pe64 rfl nx64 (by decide) (by decide) (by decide)).trans ?_
  refine Eq.trans (step_lift ['B', 'G', 'O', 'R'] (?_ : loopRun (honest ['O', 'R', 'B', 'G']) 6 (some ['G', 'B', 'R', 'O']) E64 [['B', 'G', 'O', 'R']] = (RunResult.solved ['O', 'R', 'B', 'G'] 3, [['G', 'B', 'R', 'O'], ['O', 'R', 'B', 'G']]))) rfl
  refine (loopRun_step ['O', 'R', 'B', 'G'] 6 5 ['G', 'B', 'R', 'O'] E64 [['B', 'G', 'O', 'R']] 4 0 E146 ['O', 'R', 'B', 'G'] [['B', 'G', 'O', 'R'], ['G', 'B', 'R', 'O']] rfl ((calc_eq_fastP ['O', 'R', 'B', 'G'] ['G', 'B', 'R', 'O'] (by decide) (by decide)).trans (by decide)) (by decide) pe146 rfl nx146 (by decide) (by decide) (by decide)).trans ?_
  refine Eq.trans (step_lift ['G', 'B', 'R', 'O'] (?_ : loopRun (honest ['O', 'R', 'B', 'G']) 5 (some ['O', 'R', 'B', 'G']) E146 [['B', 'G', 'O', 'R'], ['G', 'B', 'R', 'O']] = (RunResult.solved ['O', 'R', 'B', 'G'] 3, [['O', 'R', 'B', 'G']]))) rfl
  exact loopRun_last ['O', 'R', 'B', 'G'] 5 4 E146 [['B', 'G', 'O', 'R'], ['G', 'B', 'R', 'O']] rfl rfl (by decide)

lemma rs145 : loopRun (honest ['O', 'R', 'B', 'Y']) 7 none S0 [] =
    (RunResult.solved ['O', 'R', 'B', 'Y'] 4, [['B', 'G', 'O', 'R'], ['G', 'O', 'R', 'Y'], ['G', 'B', 'Y', 'O'], ['O', 'R', 'B', 'Y']]) := by
  refine (loopRun_none' (honest ['O', 'R', 'B', 'Y']) 7 S0 []).trans ?_
  refine (loopRun_step ['O', 'R', 'B', 'Y'] 7 6 ['B', 'G', 'O', 'R'] S0 [] 3 0 E65 ['G', 'O', 'R', 'Y'] [['B', 'G', 'O', 'R']] rfl ((calc_eq_fastP ['O', 'R', 'B', 'Y'] ['B', 'G', 'O', 'R'] (by decide) (by decide)).trans (by decide)) (by decide) pe65 rfl nx65 (by decide) (by decide) (by decide)).trans ?_
  refine Eq.trans (step_lift ['B', 'G', 'O', 'R'] (?_ : loopRun (honest ['O', 'R', 'B', 'Y']) 6 (some ['G', 'O', 'R', 'Y']) E65 [['B', 'G', 'O', 'R']] = (RunResult.solved ['O', 'R', 'B', 'Y'] 4, [['G', 'O', 'R', 'Y'], ['G', 'B', 'Y', 'O'], ['O', 'R', 'B', 'Y']]))) rfl
  refine (loopRun_step ['O', 'R', 'B', 'Y'] 6 5 ['G', 'O', 'R', 'Y'] E65 [['B', 'G', 'O', 'R']] 2 1 E68 ['G', 'B', 'Y', 'O'] [['B', 'G', 'O', 'R'], ['G', 'O', 'R', 'Y']] rfl ((calc_eq_fastP ['O', 'R', 'B', 'Y'] ['G', 'O', 'R', 'Y'] (by decide) (by decide)).trans (by decide)) (by decide) pe68 rfl nx68 (by decide) (by decide) (by decide)).trans ?_
  refine Eq.trans (step_lift ['G', 'O', 'R', 'Y'] (?_ : loopRun (honest ['O', 'R', 'B', 'Y']) 5 (some ['G', 'B', 'Y', 'O']) E68 [['B', 'G', 'O', 'R'], ['G', 'O', 'R', 'Y']] = (RunResult.solved ['O', 'R', 'B', 'Y'] 4, [['G', 'B', 'Y', 'O'], ['O', 'R', 'B', 'Y']]))) rfl
  refine (loopRun_step ['O', 'R', 'B', 'Y'] 5 4 ['G', 'B', 'Y', 'O'] E68 [['B', 'G', 'O', 'R'], ['G', 'O', 'R', 'Y']] 3 0 E147 ['O', 'R', 'B', 'Y'] [['B', 'G', 'O', 'R'], ['G', 'O', 'R', 'Y'], ['G', 'B', 'Y', 'O']] rfl ((calc_eq_fastP ['O', 'R', 'B', 'Y'] ['G', 'B', 'Y', 'O'] (by decide) (by decide)).trans (by decide)) (by decide) pe147 rfl nx147 (by decide) (by decide) (by decide)).trans ?_
  refine Eq.trans (step_lift ['G', 'B', 'Y', 'O'] (?_ : loopRun (honest ['O', 'R', 'B', 'Y']) 4 (some ['O', 'R', 'B', 'Y']) E147 [['B', 'G', 'O', 'R'], ['G', 'O', 'R', 'Y'], ['G', 'B', 'Y', 'O']] = (RunResult.solved ['O', 'R', 'B', 'Y'] 4, [['O', 'R', 'B', 'Y']]))) rfl
  exact loopRun_last ['O', 'R', 'B', 'Y'] 4 3 E147 [['B', 'G', 'O', 'R'], ['G', 'O', 'R', 'Y'], ['G', 'B', 'Y', 'O']] rfl rfl (by decide)

lemma rs146 : loopRun (honest ['O', 'R', 'B', 'P']) 7 none S0 [] =
    (RunResult.solved ['O', 'R', 'B', 'P'] 5, [['B', 'G', 'O', 'R'], ['G', 'O', 'R', 'Y'], ['O', 'B', 'P', 'G'], ['R', 'B', 'G', 'P'], ['O', 'R', 'B', 'P']]) := by
  refine (loopRun_none' (honest ['O', 'R', 'B', 'P']) 7 S0 []).trans ?_
  refine (loopRun_step ['O', 'R', 'B', 'P'] 7 6 ['B', 'G', 'O', 'R'] S0 [] 3 0 E65 ['G', 'O', 'R', 'Y'] [['B', 'G', 'O', 'R']] rfl ((calc_eq_fastP ['O', 'R', 'B', 'P'] ['B', 'G', 'O', 'R'] (by decide) (by decide)).trans (by decide)) (by decide) pe65 rfl nx65 (by decide) (by decide) (by decide)).trans ?_
  refine Eq.trans (step_lift ['B', 'G', 'O', 'R'] (?_ : loopRun (honest ['O', 'R', 'B', 'P']) 6 (some ['G', 'O', 'R', 'Y']) E65 [['B', 'G', 'O', 'R']] = (RunResult.solved ['O', 'R', 'B', 'P'] 5, [['G', 'O', 'R', 'Y'], ['O', 'B', 'P', 'G'], ['R', 'B', 'G', 'P'], ['O', 'R', 'B', 'P']]))) rfl
  refine (loopRun_step ['O', 'R', 'B', 'P'] 6 5 ['G', 'O', 'R', 'Y'] E65 [['B', 'G', 'O', 'R']] 2 0 E123 ['O', 'B', 'P', 'G'] [['B', 'G', 'O', 'R'], ['G', 'O', 'R', 'Y']] rfl ((calc_eq_fastP ['O', 'R', 'B', 'P'] ['G', 'O', 'R', 'Y'] (by decide) (by decide)).trans (by decide)) (by decide) pe123 rfl nx123 (by decide) (by decide) (by decide)).trans ?_
  refine Eq.trans (step_lift ['G', 'O', 'R', 'Y'] (?_ : loopRun (honest ['O', 'R', 'B', 'P']) 5 (some ['O', 'B', 'P', 'G']) E123 [['B', 'G', 'O', 'R'], ['G', 'O', 'R', 'Y']] = (RunResult.solved ['O', 'R', 'B', 'P'] 5, [['O', 'B', 'P', 'G'], ['R', 'B', 'G', 'P'], ['O', 'R', 'B', 'P']]))) rfl
  refine (loopRun_step ['O', 'R', 'B', 'P'] 5 4 ['O', 'B', 'P', 'G'] E123 [['B', 'G', 'O', 'R'], ['G', 'O', 'R', 'Y']] 2 1 E148 ['R', 'B', 'G', 'P'] [['B', 'G', 'O', 'R'], ['G', 'O', 'R', 'Y'], ['O', 'B', 'P', 'G']] rfl ((calc_eq_fastP ['O', 'R', 'B', 'P'] ['O', 'B', 'P', 'G'] (by decide) (by decide)).trans (by decide)) (by decide) pe148 rfl nx148 (by decide) (by decide) (by decide)).trans ?_
  refine Eq.trans (step_lift ['O', 'B', 'P', 'G'] (?_ : loopRun (honest ['O', 'R', 'B', 'P']) 4 (some ['R', 'B', 'G', 'P']) E148 [['B', 'G', 'O', 'R'], ['G', 'O', 'R', 'Y'], ['O', 'B', 'P', 'G']] = (RunResult.solved ['O', 'R', 'B', 'P'] 5, [['R', 'B', 'G', 'P'], ['O', 'R', 'B', 'P']]))) rfl
  refine (loopRun_step ['O', 'R', 'B', 'P'] 4 3 ['R', 'B', 'G', 'P'] E148 [['B', 'G', 'O', 'R'], ['G', 'O', 'R', 'Y'], ['O', 'B', 'P', 'G']] 2 1 [['O', 'R', 'B', 'P']] ['O', 'R', 'B', 'P'] [['B', 'G', 'O', 'R'], ['G', 'O', 'R', 'Y'], ['O', 'B', 'P', 'G'], ['R', 'B', 'G', 'P']] rfl ((calc_eq_fastP ['O', 'R', 'B', 'P'] ['R', 'B', 'G', 'P'] (by decide) (by decide)).trans (by decide)) (by decide) pe149 rfl (findNextGuess_singleton ['O', 'R', 'B', 'P'] [['B', 'G', 'O', 'R'], ['G', 'O', 'R', 'Y'], ['O', 'B', 'P', 'G'], ['R', 'B', 'G', 'P']]) (by decide) (by decide) (by decide)).trans ?_
  refine Eq.trans (step_lift ['R', 'B', 'G', 'P'] (?_ : loopRun (honest ['O', 'R', 'B', 'P']) 3 (some ['O', 'R', 'B', 'P']) [['O', 'R', 'B', 'P']] [['B', 'G', 'O', 'R'], ['G', 'O', 'R', 'Y'], ['O', 'B', 'P', 'G'], ['R', 'B', 'G', 'P']] = (RunResult.solved ['O', 'R', 'B', 'P'] 5, [['O', 'R', 'B', 'P']]))) rfl
  exact loopRun_last ['O', 'R', 'B', 'P'] 3 2 [['O', 'R', 'B', 'P']] [['B', 'G', 'O', 'R'], ['G', 'O', 'R', 'Y'], ['O', 'B', 'P', 'G'], ['R', 'B', 'G', 'P']] rfl rfl (by decide)

lemma rs147 : loopRun (honest ['O', 'R', 'G', 'B']) 7 none S0 [] =
    (RunResult.solved ['O', 'R', 'G', 'B'] 4, [['B', 'G', 'O', 'R'], ['G', 'B', 'R', 'O'], ['O', 'R', 'B', 'G'], ['O', 'R', 'G', 'B']]) := by
  refine (loopRun_none' (honest ['O', 'R', 'G', 'B']) 7 S0 []).trans ?_
  refine (loopRun_step ['O', 'R', 'G', 'B'] 7 6 ['B', 'G', 'O', 'R'] S0 [] 4 0 E64 ['G', 'B', 'R', 'O'] [['B', 'G', 'O', 'R']] rfl ((calc_eq_fastP ['O', 'R', 'G', 'B'] ['B', 'G', 'O', 'R'] (by decide) (by decide)).trans (by decide)) (by decide) pe64 rfl nx64 (by decide) (by decide) (by decide)).trans ?_
  refine Eq.trans (step_lift ['B', 'G', 'O', 'R'] (?_ : loopRun (honest ['O', 'R', 'G', 'B']) 6 (some ['G', 'B', 'R', 'O']) E64 [['B', 'G', 'O', 'R']] = (RunResult.solved ['O', 'R', 'G', 'B'] 4, [['G', 'B', 'R', 'O'], ['O', 'R', 'B', 'G'], ['O', 'R', 'G', 'B']]))) rfl
  refine (loopRun_step ['O', 'R', 'G', 'B'] 6 5 ['G', 'B', 'R', 'O'] E64 [['B', 'G', 'O', 'R']] 4 0 E146 ['O', 'R', 'B', 'G'] [['B', 'G', 'O', 'R'], ['G', 'B', 'R', 'O']] rfl ((calc_eq_fastP ['O', 'R', 'G', 'B'] ['G', 'B', 'R', 'O'] (by decide) (by decide)).trans (by decide)) (by decide) pe146 rfl nx146 (by decide) (by decide) (by decide)).trans ?_
  refine Eq.trans (step_lift ['G', 'B', 'R', 'O'] (?_ : loopRun (honest ['O', 'R', 'G', 'B']) 5 (some ['O', 'R', 'B', 'G']) E146 [['B', 'G', 'O', 'R'], ['G', 'B', 'R', 'O']] = (RunResult.solved ['O', 'R', 'G', 'B'] 4, [['O', 'R', 'B', 'G'], ['O', 'R', 'G', 'B']]))) rfl
  refine (loopRun_step ['O', 'R', 'G', 'B'] 5 4 ['O', 'R', 'B', 'G'] E146 [['B', 'G', 'O', 'R'], ['G', 'B', 'R', 'O']] 2 2 E150 ['O', 'R', 'G', 'B'] [['B', 'G', 'O', 'R'], ['G', 'B', 'R', 'O'], ['O', 'R', 'B', 'G']] rfl ((calc_eq_fastP ['O', 'R', 'G', 'B'] ['O', 'R', 'B', 'G'] (by decide) (by decide)).trans (by decide)) (by decide) pe150 rfl nx150 (by decide) (by decide) (by decide)).trans ?_
  refine Eq.trans (step_lift ['O', 'R', 'B', 'G'] (?_ : loopRun (honest ['O', 'R', 'G', 'B']) 4 (some ['O', 'R', 'G', 'B']) E150 [['B', 'G', 'O', 'R'], ['G', 'B', 'R', 'O'], ['O', 'R', 'B', 'G']] = (RunResult.solved ['O', 'R', 'G', 'B'] 4, [['O', 'R', 'G', 'B']]))) rfl
  exact loopRun_last ['O', 'R', 'G', 'B'] 4 3 E150 [['B', 'G', 'O', 'R'], ['G', 'B', 'R', 'O'], ['O', 'R', 'B', 'G']] rfl rfl (by decide)

lemma rs148 : loopRun (honest ['O', 'R', 'G', 'Y']) 7 none S0 [] =
    (RunResult.solved ['O', 'R', 'G', 'Y'] 4, [['B', 'G', 'O', 'R'], ['G', 'O', 'R', 'Y'], ['G', 'R', 'Y', 'O'], ['O', 'R', 'G', 'Y']]) := by
  refine (loopRun_none' (honest ['O', 'R', 'G', 'Y']) 7 S0 []).trans ?_
  refine (loopRun_step ['O', 'R', 'G', 'Y'] 7 6 ['B', 'G', 'O', 'R'] S0 [] 3 0 E65 ['G', 'O', 'R', 'Y'] [['B', 'G', 'O', 'R']] rfl ((calc_eq_fastP ['O', 'R', 'G', 'Y'] ['B', 'G', 'O', 'R'] (by decide) (by decide)).trans (by decide)) (by decide) pe65 rfl nx65 (by decide) (by decide) (by decide)).trans ?_
  refine Eq.trans (step_lift ['B', 'G', 'O', 'R'] (?_ : loopRun (honest ['O', 'R', 'G', 'Y']) 6 (some ['G', 'O', 'R', 'Y']) E65 [['B', 'G', 'O', 'R']] = (RunResult.solved ['O', 'R', 'G', 'Y'] 4, [['G', 'O', 'R', 'Y'], ['G', 'R', 'Y', 'O'], ['O', 'R', 'G', 'Y']]))) rfl
  refine (loopRun_step ['O', 'R', 'G', 'Y'] 6 5 ['G', 'O', 'R', 'Y'] E65 [['B', 'G', 'O', 'R']] 3 1 E95 ['G', 'R', 'Y', 'O'] [['B', 'G', 'O', 'R'], ['G', 'O', 'R', 'Y']] rfl ((calc_eq_fastP ['O', 'R', 'G', 'Y'] ['G', 'O', 'R', 'Y'] (by decide) (by decide)).trans (by decide)) (by decide) pe95 rfl nx95 (by decide) (by decide) (by decide)).trans ?_
  refine Eq.trans (step_lift ['G', 'O', 'R', 'Y'] (?_ : loopRun (honest ['O', 'R', 'G', 'Y']) 5 (some ['G', 'R', 'Y', 'O']) E95 [['B', 'G', 'O', 'R'], ['G', 'O', 'R', 'Y']] = (RunResult.solved ['O', 'R', 'G', 'Y'] 4, [['G', 'R', 'Y', 'O'], ['O', 'R', 'G', 'Y']]))) rfl
  refine (loopRun_step ['O', 'R', 'G', 'Y'] 5 4 ['G', 'R', 'Y', 'O'] E95 [['B', 'G', 'O', 'R'], ['G', 'O', 'R', 'Y']] 3 1 E151 ['O', 'R', 'G', 'Y'] [['B', 'G', 'O', 'R'], ['G', 'O', 'R', 'Y'], ['G', 'R', 'Y', 'O']] rfl ((calc_eq_fastP ['O', 'R', 'G', 'Y'] ['G', 'R', 'Y', 'O'] (by decide) (by decide)).trans (by decide)) (by decide) pe151 rfl nx151 (by decide) (by decide) (by decide)).trans ?_
  refine Eq.trans (step_lift ['G', 'R', 'Y', 'O'] (?_ : loopRun (honest ['O', 'R', 'G', 'Y']) 4 (some ['O', 'R', 'G', 'Y']) E151 [['B', 'G', 'O', 'R'], ['G', 'O', 'R', 'Y'], ['G', 'R', 'Y', 'O']] = (RunResult.solved ['O', 'R', 'G', 'Y'] 4, [['O', 'R', 'G', 'Y']]))) rfl
  exact loopRun_last ['O', 'R', 'G', 'Y'] 4 3 E151 [['B', 'G', 'O', 'R'], ['G', 'O', 'R', 'Y'], ['G', 'R', 'Y', 'O']] rfl rfl (by decide)

lemma rs149 : loopRun (honest ['O', 'R', 'G', 'P']) 7 none S0 [] =
    (RunResult.solved ['O', 'R', 'G', 'P'] 4, [['B', 'G', 'O', 'R'], ['G', 'O', 'R', 'Y'], ['O', 'B', 'Y', 'G'], ['O', 'R', 'G', 'P']]) := by
  refine (loopRun_none' (honest ['O', 'R', 'G', 'P']) 7 S0 []).trans ?_
  refine (loopRun_step ['O', 'R', 'G', 'P'] 7 6 ['B', 'G', 'O', 'R'] S0 [] 3 0 E65 ['G', 'O', 'R', 'Y'] [['B', 'G', 'O', 'R']] rfl ((calc_eq_fastP ['O', 'R', 'G', 'P'] ['B', 'G', 'O', 'R'] (by decide) (by decide)).trans (by decide)) (by decide) pe65 rfl nx65 (by decide) (by decide) (by decide)).trans ?_
  refine Eq.trans (step_lift ['B', 'G', 'O', 'R'] (?_ : loopRun (honest ['O', 'R', 'G', 'P']) 6 (some ['G', 'O', 'R', 'Y']) E65 [['B', 'G', 'O', 'R']] = (RunResult.solved ['O', 'R', 'G', 'P'] 4, [['G', 'O', 'R', 'Y'], ['O', 'B', 'Y', 'G'], ['O', 'R', 'G', 'P']]))) rfl
  refine (loopRun_step ['O', 'R', 'G', 'P'] 6 5 ['G', 'O', 'R', 'Y'] E65 [['B', 'G', 'O', 'R']] 3 0 E128 ['O', 'B', 'Y', 'G'] [['B', 'G', 'O', 'R'], ['G', 'O', 'R', 'Y']] rfl ((calc_eq_fastP ['O', 'R', 'G', 'P'] ['G', 'O', 'R', 'Y'] (by decide) (by decide)).trans (by decide)) (by decide) pe128 rfl nx128 (by decide) (by decide) (by decide)).trans ?_
  refine Eq.trans (step_lift ['G', 'O', 'R', 'Y'] (?_ : loopRun (honest ['O', 'R', 'G', 'P']) 5 (some ['O', 'B', 'Y', 'G']) E128 [['B', 'G', 'O', 'R'], ['G', 'O', 'R', 'Y']] = (RunResult.solved ['O', 'R', 'G', 'P'] 4, [['O', 'B', 'Y', 'G'], ['O', 'R', 'G', 'P']]))) rfl
  refine (loopRun_step ['O', 'R', 'G', 'P'] 5 4 ['O', 'B', 'Y', 'G'] E128 [['B', 'G', 'O', 'R'], ['G', 'O', 'R', 'Y']] 1 1 [['O', 'R', 'G', 'P']] ['O', 'R', 'G', 'P'] [['B', 'G', 'O', 'R'], ['G', 'O', 'R', 'Y'], ['O', 'B', 'Y', 'G']] rfl ((calc_eq_fastP ['O', 'R', 'G', 'P'] ['O', 'B', 'Y', 'G'] (by decide) (by decide)).trans (by decide)) (by decide) pe152 rfl (findNextGuess_singleton ['O', 'R', 'G', 'P'] [['B', 'G', 'O', 'R'], ['G', 'O', 'R', 'Y'], ['O', 'B', 'Y', 'G']]) (by decide) (by decide) (by decide)).trans ?_
  refine Eq.trans (step_lift ['O', 'B', 'Y', 'G'] (?_ : loopRun (honest ['O', 'R', 'G', 'P']) 4 (some ['O', 'R', 'G', 'P']) [['O', 'R', 'G', 'P']] [['B', 'G', 'O', 'R'], ['G', 'O', 'R', 'Y'], ['O', 'B', 'Y', 'G']] = (RunResult.solved ['O', 'R', 'G', 'P'] 4, [['O', 'R', 'G', 'P']]))) rfl
  exact loopRun_last ['O', 'R', 'G', 'P'] 4 3 [['O', 'R', 'G', 'P']] [['B', 'G', 'O', 'R'], ['G', 'O', 'R', 'Y'], ['O', 'B', 'Y', 'G']] rfl rfl (by decide)

lemma rs150 : loopRun (honest ['O', 'R', 'Y', 'B']) 7 none S0 [] =
    (RunResult.solved ['O', 'R', 'Y', 'B'] 4, [['B', 'G', 'O', 'R'], ['G', 'O', 'R', 'Y'], ['O', 'B', 'Y', 'G'], ['O', 'R', 'Y', 'B']]) := by
  refine (loopRun_none' (honest ['O', 'R', 'Y', 'B']) 7 S0 []).trans ?_
  refine (loopRun_step ['O', 'R', 'Y', 'B'] 7 6 ['B', 'G', 'O', 'R'] S0 [] 3 0 E65 ['G', 'O', 'R', 'Y'] [['B', 'G', 'O', 'R']] rfl ((calc_eq_fastP ['O', 'R', 'Y', 'B'] ['B', 'G', 'O', 'R'] (by decide) (by decide)).trans (by decide)) (by decide) pe65 rfl nx65 (by decide) (by decide) (by decide)).trans ?_
  refine Eq.trans (step_lift ['B', 'G', 'O', 'R'] (?_ : loopRun (honest ['O', 'R', 'Y', 'B']) 6 (some ['G', 'O', 'R', 'Y']) E65 [['B', 'G', 'O', 'R']] = (RunResult.solved ['O', 'R', 'Y', 'B'] 4, [['G', 'O', 'R', 'Y'], ['O', 'B', 'Y', 'G'], ['O', 'R', 'Y', 'B']]))) rfl
  refine (loopRun_step ['O', 'R', 'Y', 'B'] 6 5 ['G', 'O', 'R', 'Y'] E65 [['B', 'G', 'O', 'R']] 3 0 E128 ['O', 'B', 'Y', 'G'] [['B', 'G', 'O', 'R'], ['G', 'O', 'R', 'Y']] rfl ((calc_eq_fastP ['O', 'R', 'Y', 'B'] ['G', 'O', 'R', 'Y'] (by decide) (by decide)).trans (by decide)) (by decide) pe128 rfl nx128 (by decide) (by decide) (by decide)).trans ?_
  refine Eq.trans (step_lift ['G', 'O', 'R', 'Y'] (?_ : loopRun (honest ['O', 'R', 'Y', 'B']) 5 (some ['O', 'B', 'Y', 'G']) E128 [['B', 'G', 'O', 'R'], ['G', 'O', 'R', 'Y']] = (RunResult.solved ['O', 'R', 'Y', 'B'] 4, [['O', 'B', 'Y', 'G'], ['O', 'R', 'Y', 'B']]))) rfl
  refine (loopRun_step ['O', 'R', 'Y', 'B'] 5 4 ['O', 'B', 'Y', 'G'] E128 [['B', 'G', 'O', 'R'], ['G', 'O', 'R', 'Y']] 1 2 E153 ['O', 'R', 'Y', 'B'] [['B', 'G', 'O', 'R'], ['G', 'O', 'R', 'Y'], ['O', 'B', 'Y', 'G']] rfl ((calc_eq_fastP ['O', 'R', 'Y', 'B'] ['O', 'B', 'Y', 'G'] (by decide) (by decide)).trans (by decide)) (by decide) pe153 rfl nx153 (by decide) (by decide) (by decide)).trans ?_
  refine Eq.trans (step_lift ['O', 'B', 'Y', 'G'] (?_ : loopRun (honest ['O', 'R', 'Y', 'B']) 4 (some ['O', 'R', 'Y', 'B']) E153 [['B', 'G', 'O', 'R'], ['G', 'O', 'R', 'Y'], ['O', 'B', 'Y', 'G']] = (RunResult.solved ['O', 'R', 'Y', 'B'] 4, [['O', 'R', 'Y', 'B']]))) rfl
  exact loopRun_last ['O', 'R', 'Y', 'B'] 4 3 E153 [['B', 'G', 'O', 'R'], ['G', 'O', 'R', 'Y'], ['O', 'B', 'Y', 'G']] rfl rfl (by decide)

lemma rs151 : loopRun (honest ['O', 'R', 'Y', 'G']) 7 none S0 [] =
    (RunResult.solved ['O', 'R', 'Y', 'G'] 3, [['B', 'G', 'O', 'R'], ['G', 'O', 'R', 'Y'], ['O', 'R', 'Y', 'G']]) := by
  refine (loopRun_none' (honest ['O', 'R', 'Y', 'G']) 7 S0 []).trans ?_
  refine (loopRun_step ['O', 'R', 'Y', 'G'] 7 6 ['B', 'G', 'O', 'R'] S0 [] 3 0 E65 ['G', 'O', 'R', 'Y'] [['B', 'G', 'O', 'R']] rfl ((calc_eq_fastP ['O', 'R', 'Y', 'G'] ['B', 'G', 'O', 'R'] (by decide) (by decide)).trans (by decide)) (by decide) pe65 rfl nx65 (by decide) (by decide) (by decide)).trans ?_
  refine Eq.trans (step_lift ['B', 'G', 'O', 'R'] (?_ : loopRun (honest ['O', 'R', 'Y', 'G']) 6 (some ['G', 'O', 'R', 'Y']) E65 [['B', 'G', 'O', 'R']] = (RunResult.solved ['O', 'R', 'Y', 'G'] 3, [['G', 'O', 'R', 'Y'], ['O', 'R', 'Y', 'G']]))) rfl
  refine (loopRun_step ['O', 'R', 'Y', 'G'] 6 5 ['G', 'O', 'R', 'Y'] E65 [['B', 'G', 'O', 'R']] 4 0 E154 ['O', 'R', 'Y', 'G'] [['B', 'G', 'O', 'R'], ['G', 'O', 'R', 'Y']] rfl ((calc_eq_fastP ['O', 'R', 'Y', 'G'] ['G', 'O', 'R', 'Y'] (by decide) (by decide)).trans (by decide)) (by decide) pe154 rfl nx154 (by decide) (by decide) (by decide)).trans ?_
  refine Eq.trans (step_lift ['G', 'O', 'R', 'Y'] (?_ : loopRun (honest ['O', 'R', 'Y', 'G']) 5 (some ['O', 'R', 'Y', 'G']) E154 [['B', 'G', 'O', 'R'], ['G', 'O', 'R', 'Y']] = (RunResult.solved ['O', 'R', 'Y', 'G'] 3, [['O', 'R', 'Y', 'G']]))) rfl
  exact loopRun_last ['O', 'R', 'Y', 'G'] 5 4 E154 [['B', 'G', 'O', 'R'], ['G', 'O', 'R', 'Y']] rfl rfl (by decide)

lemma rs152 : loopRun (honest ['O', 'R', 'Y', 'P']) 7 none S0 [] =
    (RunResult.solved ['O', 'R', 'Y', 'P'] 4, [['B', 'G', 'O', 'R'], ['G', 'Y', 'R', 'P'], ['G', 'B', 'P', 'Y'], ['O', 'R', 'Y', 'P']]) := by
  refine (loopRun_none' (honest ['O', 'R', 'Y', 'P']) 7 S0 []).trans ?_
  refine (loopRun_step ['O', 'R', 'Y', 'P'] 7 6 ['B', 'G', 'O', 'R'] S0 [] 2 0 E72 ['G', 'Y', 'R', 'P'] [['B', 'G', 'O', 'R']] rfl ((calc_eq_fastP ['O', 'R', 'Y', 'P'] ['B', 'G', 'O', 'R'] (by decide) (by decide)).trans (by decide)) (by decide) pe72 rfl nx72 (by decide) (by decide) (by decide)).trans ?_
  refine Eq.trans (step_lift ['B', 'G', 'O', 'R'] (?_ : loopRun (honest ['O', 'R', 'Y', 'P']) 6 (some ['G', 'Y', 'R', 'P']) E72 [['B', 'G', 'O', 'R']] = (RunResult.solved ['O', 'R', 'Y', 'P'] 4, [['G', 'Y', 'R', 'P'], ['G', 'B', 'P', 'Y'], ['O', 'R', 'Y', 'P']]))) rfl
  refine (loopRun_step ['O', 'R', 'Y', 'P'] 6 5 ['G', 'Y', 'R', 'P'] E72 [['B', 'G', 'O', 'R']] 2 1 E78 ['G', 'B', 'P', 'Y'] [['B', 'G', 'O', 'R'], ['G', 'Y', 'R', 'P']] rfl ((calc_eq_fastP ['O', 'R', 'Y', 'P'] ['G', 'Y', 'R', 'P'] (by decide) (by decide)).trans (by decide)) (by decide) pe78 rfl nx78 (by decide) (by decide) (by decide)).trans ?_
  refine Eq.trans (step_lift ['G', 'Y', 'R', 'P'] (?_ : loopRun (honest ['O', 'R', 'Y', 'P']) 5 (some ['G', 'B', 'P', 'Y']) E78 [['B', 'G', 'O', 'R'], ['G', 'Y', 'R', 'P']] = (RunResult.solved ['O', 'R', 'Y', 'P'] 4, [['G', 'B', 'P', 'Y'], ['O', 'R', 'Y', 'P']]))) rfl
  refine (loopRun_step ['O', 'R', 'Y', 'P'] 5 4 ['G', 'B', 'P', 'Y'] E78 [['B', 'G', 'O', 'R'], ['G', 'Y', 'R', 'P']] 2 0 E155 ['O', 'R', 'Y', 'P'] [['B', 'G', 'O', 'R'], ['G', 'Y', 'R', 'P'], ['G', 'B', 'P', 'Y']] rfl ((calc_eq_fastP ['O', 'R', 'Y', 'P'] ['G', 'B', 'P', 'Y'] (by decide) (by decide)).trans (by decide)) (by decide) pe155 rfl nx155 (by decide) (by decide) (by decide)).trans ?_
  refine Eq.trans (step_lift ['G', 'B', 'P', 'Y'] (?_ : loopRun (honest ['O', 'R', 'Y', 'P']) 4 (some ['O', 'R', 'Y', 'P']) E155 [['B', 'G', 'O', 'R'], ['G', 'Y', 'R', 'P'], ['G', 'B', 'P', 'Y']] = (RunResult.solved ['O', 'R', 'Y', 'P'] 4, [['O', 'R', 'Y', 'P']]))) rfl
  exact loopRun_last ['O', 'R', 'Y', 'P'] 4 3 E155 [['B', 'G', 'O', 'R'], ['G', 'Y', 'R', 'P'], ['G', 'B', 'P', 'Y']] rfl rfl (by decide)

lemma rs153 : loopRun (honest ['O', 'R', 'P', 'B']) 7 none S0 [] =
    (RunResult.solved ['O', 'R', 'P', 'B'] 4, [['B', 'G', 'O', 'R'], ['G', 'O', 'R', 'Y'], ['O', 'B', 'P', 'G'], ['O', 'R', 'P', 'B']]) := by
  refine (loopRun_none' (honest ['O', 'R', 'P', 'B']) 7 S0 []).trans ?_
  refine (loopRun_step ['O', 'R', 'P', 'B'] 7 6 ['B', 'G', 'O', 'R'] S0 [] 3 0 E65 ['G', 'O', 'R', 'Y'] [['B', 'G', 'O', 'R']] rfl ((calc_eq_fastP ['O', 'R', 'P', 'B'] ['B', 'G', 'O', 'R'] (by decide) (by decide)).trans (by decide)) (by decide) pe65 rfl nx65 (by decide) (by decide) (by decide)).trans ?_
  refine Eq.trans (step_lift ['B', 'G', 'O', 'R'] (?_ : loopRun (honest ['O', 'R', 'P', 'B']) 6 (some ['G', 'O', 'R', 'Y']) E65 [['B', 'G', 'O', 'R']] = (RunResult.solved ['O', 'R', 'P', 'B'] 4, [['G', 'O', 'R', 'Y'], ['O', 'B', 'P', 'G'], ['O', 'R', 'P', 'B']]))) rfl
  refine (loopRun_step ['O', 'R', 'P', 'B'] 6 5 ['G', 'O', 'R', 'Y'] E65 [['B', 'G', 'O', 'R']] 2 0 E123 ['O', 'B', 'P', 'G'] [['B', 'G', 'O', 'R'], ['G', 'O', 'R', 'Y']] rfl ((calc_eq_fastP ['O', 'R', 'P', 'B'] ['G', 'O', 'R', 'Y'] (by decide) (by decide)).trans (by decide)) (by decide) pe123 rfl nx123 (by decide) (by decide) (by decide)).trans ?_
  refine Eq.trans (step_lift ['G', 'O', 'R', 'Y'] (?_ : loopRun (honest ['O', 'R', 'P', 'B']) 5 (some ['O', 'B', 'P', 'G']) E123 [['B', 'G', 'O', 'R'], ['G', 'O', 'R', 'Y']] = (RunResult.solved ['O', 'R', 'P', 'B'] 4, [['O', 'B', 'P', 'G'], ['O', 'R', 'P', 'B']]))) rfl
  refine (loopRun_step ['O', 'R', 'P', 'B'] 5 4 ['O', 'B', 'P', 'G'] E123 [['B', 'G', 'O', 'R'], ['G', 'O', 'R', 'Y']] 1 2 E156 ['O', 'R', 'P', 'B'] [['B', 'G', 'O', 'R'], ['G', 'O', 'R', 'Y'], ['O', 'B', 'P', 'G']] rfl ((calc_eq_fastP ['O', 'R', 'P', 'B'] ['O', 'B', 'P', 'G'] (by decide) (by decide)).trans (by decide)) (by decide) pe156 rfl nx156 (by decide) (by decide) (by decide)).trans ?_
  refine Eq.trans (step_lift ['O', 'B', 'P', 'G'] (?_ : loopRun (honest ['O', 'R', 'P', 'B']) 4 (some ['O', 'R', 'P', 'B']) E156 [['B', 'G', 'O', 'R'], ['G', 'O', 'R', 'Y'], ['O', 'B', 'P', 'G']] = (RunResult.solved ['O', 'R', 'P', 'B'] 4, [['O', 'R', 'P', 'B']]))) rfl
  exact loopRun_last ['O', 'R', 'P', 'B'] 4 3 E156 [['B', 'G', 'O', 'R'], ['G', 'O', 'R', 'Y'], ['O', 'B', 'P', 'G']] rfl rfl (by decide)

lemma rs154 : loopRun (honest ['O', 'R', 'P', 'G']) 7 none S0 [] =
    (RunResult.solved ['O', 'R', 'P', 'G'] 4, [['B', 'G', 'O', 'R'], ['G', 'O', 'R', 'Y'], ['O', 'B', 'Y', 'G'], ['O', 'R', 'P', 'G']]) := by
  refine (loopRun_none' (honest ['O', 'R', 'P', 'G']) 7 S0 []).trans ?_
  refine (loopRun_step ['O', 'R', 'P', 'G'] 7 6 ['B', 'G', 'O', 'R'] S0 [] 3 0 E65 ['G', 'O', 'R', 'Y'] [['B', 'G', 'O', 'R']] rfl ((calc_eq_fastP ['O', 'R', 'P', 'G'] ['B', 'G', 'O', 'R'] (by decide) (by decide)).trans (by decide)) (by decide) pe65 rfl nx65 (by decide) (by decide) (by decide)).trans ?_
  refine Eq.trans (step_lift ['B', 'G', 'O', 'R'] (?_ : loopRun (honest ['O', 'R', 'P', 'G']) 6 (some ['G', 'O', 'R', 'Y']) E65 [['B', 'G', 'O', 'R']] = (RunResult.solved ['O', 'R', 'P', 'G'] 4, [['G', 'O', 'R', 'Y'], ['O', 'B', 'Y', 'G'], ['O', 'R', 'P', 'G']]))) rfl
  refine (loopRun_step ['O', 'R', 'P', 'G'] 6 5 ['G', 'O', 'R', 'Y'] E65 [['B', 'G', 'O', 'R']] 3 0 E128 ['O', 'B', 'Y', 'G'] [['B', 'G', 'O', 'R'], ['G', 'O', 'R', 'Y']] rfl ((calc_eq_fastP ['O', 'R', 'P', 'G'] ['G', 'O', 'R', 'Y'] (by decide) (by decide)).trans (by decide)) (by decide) pe128 rfl nx128 (by decide) (by decide) (by decide)).trans ?_
  refine Eq.trans (step_lift ['G', 'O', 'R', 'Y'] (?_ : loopRun (honest ['O', 'R', 'P', 'G']) 5 (some ['O', 'B', 'Y', 'G']) E128 [['B', 'G', 'O', 'R'], ['G', 'O', 'R', 'Y']] = (RunResult.solved ['O', 'R', 'P', 'G'] 4, [['O', 'B', 'Y', 'G'], ['O', 'R', 'P', 'G']]))) rfl
  refine (loopRun_step ['O', 'R', 'P', 'G'] 5 4 ['O', 'B', 'Y', 'G'] E128 [['B', 'G', 'O', 'R'], ['G', 'O', 'R', 'Y']] 0 2 [['O', 'R', 'P', 'G']] ['O', 'R', 'P', 'G'] [['B', 'G', 'O', 'R'], ['G', 'O', 'R', 'Y'], ['O', 'B', 'Y', 'G']] rfl ((calc_eq_fastP ['O', 'R', 'P', 'G'] ['O', 'B', 'Y', 'G'] (by decide) (by decide)).trans (by decide)) (by decide) pe157 rfl (findNextGuess_singleton ['O', 'R', 'P', 'G'] [['B', 'G', 'O', 'R'], ['G', 'O', 'R', 'Y'], ['O', 'B', 'Y', 'G']]) (by decide) (by decide) (by decide)).trans ?_
  refine Eq.trans (step_lift ['O', 'B', 'Y', 'G'] (?_ : loopRun (honest ['O', 'R', 'P', 'G']) 4 (some ['O', 'R', 'P', 'G']) [['O', 'R', 'P', 'G']] [['B', 'G', 'O', 'R'], ['G', 'O', 'R', 'Y'], ['O', 'B', 'Y', 'G']] = (RunResult.solved ['O', 'R', 'P', 'G'] 4, [['O', 'R', 'P', 'G']]))) rfl
  exact loopRun_last ['O', 'R', 'P', 'G'] 4 3 [['O', 'R', 'P', 'G']] [['B', 'G', 'O', 'R'], ['G', 'O', 'R', 'Y'], ['O', 'B', 'Y', 'G']] rfl rfl (by decide)

lemma rs155 : loopRun (honest ['O', 'R', 'P', 'Y']) 7 none S0 [] =
    (RunResult.solved ['O', 'R', 'P', 'Y'] 5, [['B', 'G', 'O', 'R'], ['G', 'Y', 'R', 'P'], ['R', 'B', 'P', 'Y'], ['Y', 'B', 'P', 'G'], ['O', 'R', 'P', 'Y']]) := by
  refine (loopRun_none' (honest ['O', 'R', 'P', 'Y']) 7 S0 []).trans ?_
  refine (loopRun_step ['O', 'R', 'P', 'Y'] 7 6 ['B', 'G', 'O', 'R'] S0 [] 2 0 E72 ['G', 'Y', 'R', 'P'] [['B', 'G', 'O', 'R']] rfl ((calc_eq_fastP ['O', 'R', 'P', 'Y'] ['B', 'G', 'O', 'R'] (by decide) (by decide)).trans (by decide)) (by decide) pe72 rfl nx72 (by decide) (by decide) (by decide)).trans ?_
  refine Eq.trans (step_lift ['B', 'G', 'O', 'R'] (?_ : loopRun (honest ['O', 'R', 'P', 'Y']) 6 (some ['G', 'Y', 'R', 'P']) E72 [['B', 'G', 'O', 'R']] = (RunResult.solved ['O', 'R', 'P', 'Y'] 5, [['G', 'Y', 'R', 'P'], ['R', 'B', 'P', 'Y'], ['Y', 'B', 'P', 'G'], ['O', 'R', 'P', 'Y']]))) rfl
  refine (loopRun_step ['O', 'R', 'P', 'Y'] 6 5 ['G', 'Y', 'R', 'P'] E72 [['B', 'G', 'O', 'R']] 3 0 E158 ['R', 'B', 'P', 'Y'] [['B', 'G', 'O', 'R'], ['G', 'Y', 'R', 'P']] rfl ((calc_eq_fastP ['O', 'R', 'P', 'Y'] ['G', 'Y', 'R', 'P'] (by decide) (by decide)).trans (by decide)) (by decide) pe158 rfl nx158 (by decide) (by decide) (by decide)).trans ?_
  refine Eq.trans (step_lift ['G', 'Y', 'R', 'P'] (?_ : loopRun (honest ['O', 'R', 'P', 'Y']) 5 (some ['R', 'B', 'P', 'Y']) E158 [['B', 'G', 'O', 'R'], ['G', 'Y', 'R', 'P']] = (RunResult.solved ['O', 'R', 'P', 'Y'] 5, [['R', 'B', 'P', 'Y'], ['Y', 'B', 'P', 'G'], ['O', 'R', 'P', 'Y']]))) rfl
  refine (loopRun_step ['O', 'R', 'P', 'Y'] 5 4 ['R', 'B', 'P', 'Y'] E158 [['B', 'G', 'O', 'R'], ['G', 'Y', 'R', 'P']] 1 2 E159 ['Y', 'B', 'P', 'G'] [['B', 'G', 'O', 'R'], ['G', 'Y', 'R', 'P'], ['R', 'B', 'P', 'Y']] rfl ((calc_eq_fastP ['O', 'R', 'P', 'Y'] ['R', 'B', 'P', 'Y'] (by decide) (by decide)).trans (by decide)) (by decide) pe159 rfl nx159 (by decide) (by decide) (by decide)).trans ?_
  refine Eq.trans (step_lift ['R', 'B', 'P', 'Y'] (?_ : loopRun (honest ['O', 'R', 'P', 'Y']) 4 (some ['Y', 'B', 'P', 'G']) E159 [['B', 'G', 'O', 'R'], ['G', 'Y', 'R', 'P'], ['R', 'B', 'P', 'Y']] = (RunResult.solved ['O', 'R', 'P', 'Y'] 5, [['Y', 'B', 'P', 'G'], ['O', 'R', 'P', 'Y']]))) rfl
  refine (loopRun_step ['O', 'R', 'P', 'Y'] 4 3 ['Y', 'B', 'P', 'G'] E159 [['B', 'G', 'O', 'R'], ['G', 'Y', 'R', 'P'], ['R', 'B', 'P', 'Y']] 1 1 [['O', 'R', 'P', 'Y']] ['O', 'R', 'P', 'Y'] [['B', 'G', 'O', 'R'], ['G', 'Y', 'R', 'P'], ['R', 'B', 'P', 'Y'], ['Y', 'B', 'P', 'G']] rfl ((calc_eq_fastP ['O', 'R', 'P', 'Y'] ['Y', 'B', 'P', 'G'] (by decide) (by decide)).trans (by decide)) (by decide) pe160 rfl (findNextGuess_singleton ['O', 'R', 'P', 'Y'] [['B', 'G', 'O', 'R'], ['G', 'Y', 'R', 'P'], ['R', 'B', 'P', 'Y'], ['Y', 'B', 'P', 'G']]) (by decide) (by decide) (by decide)).trans ?_
  refine Eq.trans (step_lift ['Y', 'B', 'P', 'G'] (?_ : loopRun (honest ['O', 'R', 'P', 'Y']) 3 (some ['O', 'R', 'P', 'Y']) [['O', 'R', 'P', 'Y']] [['B', 'G', 'O', 'R'], ['G', 'Y', 'R', 'P'], ['R', 'B', 'P', 'Y'], ['Y', 'B', 'P', 'G']] = (RunResult.solved ['O', 'R', 'P', 'Y'] 5, [['O', 'R', 'P', 'Y']]))) rfl
  exact loopRun_last ['O', 'R', 'P', 'Y'] 3 2 [['O', 'R', 'P', 'Y']] [['B', 'G', 'O', 'R'], ['G', 'Y', 'R', 'P'], ['R', 'B', 'P', 'Y'], ['Y', 'B', 'P', 'G']] rfl rfl (by decide)

lemma rs156 : loopRun (honest ['O', 'Y', 'B', 'G']) 7 none S0 [] =
    (RunResult.solved ['O', 'Y', 'B', 'G'] 4, [['B', 'G', 'O', 'R'], ['G', 'O', 'R', 'Y'], ['O', 'B', 'Y', 'G'], ['O', 'Y', 'B', 'G']]) := by
  refine (loopRun_none' (honest ['O', 'Y', 'B', 'G']) 7 S0 []).trans ?_
  refine (loopRun_step ['O', 'Y', 'B', 'G'] 7 6 ['B', 'G', 'O', 'R'] S0 [] 3 0 E65 ['G', 'O', 'R', 'Y'] [['B', 'G', 'O', 'R']] rfl ((calc_eq_fastP ['O', 'Y', 'B', 'G'] ['B', 'G', 'O', 'R'] (by decide) (by decide)).trans (by decide)) (by decide) pe65 rfl nx65 (by decide) (by decide) (by decide)).trans ?_
  refine Eq.trans (step_lift ['B', 'G', 'O', 'R'] (?_ : loopRun (honest ['O', 'Y', 'B', 'G']) 6 (some ['G', 'O', 'R', 'Y']) E65 [['B', 'G', 'O', 'R']] = (RunResult.solved ['O', 'Y', 'B', 'G'] 4, [['G', 'O', 'R', 'Y'], ['O', 'B', 'Y', 'G'], ['O', 'Y', 'B', 'G']]))) rfl
  refine (loopRun_step ['O', 'Y', 'B', 'G'] 6 5 ['G', 'O', 'R', 'Y'] E65 [['B', 'G', 'O', 'R']] 3 0 E128 ['O', 'B', 'Y', 'G'] [['B', 'G', 'O', 'R'], ['G', 'O', 'R', 'Y']] rfl ((calc_eq_fastP ['O', 'Y', 'B', 'G'] ['G', 'O', 'R', 'Y'] (by decide) (by decide)).trans (by decide)) (by decide) pe128 rfl nx128 (by decide) (by decide) (by decide)).trans ?_
  refine Eq.trans (step_lift ['G', 'O', 'R', 'Y'] (?_ : loopRun (honest ['O', 'Y', 'B', 'G']) 5 (some ['O', 'B', 'Y', 'G']) E128 [['B', 'G', 'O', 'R'], ['G', 'O', 'R', 'Y']] = (RunResult.solved ['O', 'Y', 'B', 'G'] 4, [['O', 'B', 'Y', 'G'], ['O', 'Y', 'B', 'G']]))) rfl
  refine (loopRun_step ['O', 'Y', 'B', 'G'] 5 4 ['O', 'B', 'Y', 'G'] E128 [['B', 'G', 'O', 'R'], ['G', 'O', 'R', 'Y']] 2 2 [['O', 'Y', 'B', 'G']] ['O', 'Y', 'B', 'G'] [['B', 'G', 'O', 'R'], ['G', 'O', 'R', 'Y'], ['O', 'B', 'Y', 'G']] rfl ((calc_eq_fastP ['O', 'Y', 'B', 'G'] ['O', 'B', 'Y', 'G'] (by decide) (by decide)).trans (by decide)) (by decide) pe161 rfl (findNextGuess_singleton ['O', 'Y', 'B', 'G'] [['B', 'G', 'O', 'R'], ['G', 'O', 'R', 'Y'], ['O', 'B', 'Y', 'G']]) (by decide) (by decide) (by decide)).trans ?_
  refine Eq.trans (step_lift ['O', 'B', 'Y', 'G'] (?_ : loopRun (honest ['O', 'Y', 'B', 'G']) 4 (some ['O', 'Y', 'B', 'G']) [['O', 'Y', 'B', 'G']] [['B', 'G', 'O', 'R'], ['G', 'O', 'R', 'Y'], ['O', 'B', 'Y', 'G']] = (RunResult.solved ['O', 'Y', 'B', 'G'] 4, [['O', 'Y', 'B', 'G']]))) rfl
  exact loopRun_last ['O', 'Y', 'B', 'G'] 4 3 [['O', 'Y', 'B', 'G']] [['B', 'G', 'O', 'R'], ['G', 'O', 'R', 'Y'], ['O', 'B', 'Y', 'G']] rfl rfl (by decide)

lemma rs157 : loopRun (honest ['O', 'Y', 'B', 'R']) 7 none S0 [] =
    (RunResult.solved ['O', 'Y', 'B', 'R'] 3, [['B', 'G', 'O', 'R'], ['B', 'O', 'R', 'Y'], ['O', 'Y', 'B', 'R']]) := by
  refine (loopRun_none' (honest ['O', 'Y', 'B', 'R']) 7 S0 []).trans ?_
  refine (loopRun_step ['O', 'Y', 'B', 'R'] 7 6 ['B', 'G', 'O', 'R'] S0 [] 2 1 E13 ['B', 'O', 'R', 'Y'] [['B', 'G', 'O', 'R']] rfl ((calc_eq_fastP ['O', 'Y', 'B', 'R'] ['B', 'G', 'O', 'R'] (by decide) (by decide)).trans (by decide)) (by decide) pe13 rfl nx13 (by decide) (by decide) (by decide)).trans ?_
  refine Eq.trans (step_lift ['B', 'G', 'O', 'R'] (?_ : loopRun (honest ['O', 'Y', 'B', 'R']) 6 (some ['B', 'O', 'R', 'Y']) E13 [['B', 'G', 'O', 'R']] = (RunResult.solved ['O', 'Y', 'B', 'R'] 3, [['B', 'O', 'R', 'Y'], ['O', 'Y', 'B', 'R']]))) rfl
  refine (loopRun_step ['O', 'Y', 'B', 'R'] 6 5 ['B', 'O', 'R', 'Y'] E13 [['B', 'G', 'O', 'R']] 4 0 E129 ['O', 'Y', 'B', 'R'] [['B', 'G', 'O', 'R'], ['B', 'O', 'R', 'Y']] rfl ((calc_eq_fastP ['O', 'Y', 'B', 'R'] ['B', 'O', 'R', 'Y'] (by decide) (by decide)).trans (by decide)) (by decide) pe129 rfl nx129 (by decide) (by decide) (by decide)).trans ?_
  refine Eq.trans (step_lift ['B', 'O', 'R', 'Y'] (?_ : loopRun (honest ['O', 'Y', 'B', 'R']) 5 (some ['O', 'Y', 'B', 'R']) E129 [['B', 'G', 'O', 'R'], ['B', 'O', 'R', 'Y']] = (RunResult.solved ['O', 'Y', 'B', 'R'] 3, [['O', 'Y', 'B', 'R']]))) rfl
  exact loopRun_last ['O', 'Y', 'B', 'R'] 5 4 E129 [['B', 'G', 'O', 'R'], ['B', 'O', 'R', 'Y']] rfl rfl (by decide)

lemma rs158 : loopRun (honest ['O', 'Y', 'B', 'P']) 7 none S0 [] =
    (RunResult.solved ['O', 'Y', 'B', 'P'] 3, [['B', 'G', 'O', 'R'], ['G', 'Y', 'R', 'P'], ['O', 'Y', 'B', 'P']]) := by
  refine (loopRun_none' (honest ['O', 'Y', 'B', 'P']) 7 S0 []).trans ?_
  refine (loopRun_step ['O', 'Y', 'B', 'P'] 7 6 ['B', 'G', 'O', 'R'] S0 [] 2 0 E72 ['G', 'Y', 'R', 'P'] [['B', 'G', 'O', 'R']] rfl ((calc_eq_fastP ['O', 'Y', 'B', 'P'] ['B', 'G', 'O', 'R'] (by decide) (by decide)).trans (by decide)) (by decide) pe72 rfl nx72 (by decide) (by decide) (by decide)).trans ?_
  refine Eq.trans (step_lift ['B', 'G', 'O', 'R'] (?_ : loopRun (honest ['O', 'Y', 'B', 'P']) 6 (some ['G', 'Y', 'R', 'P']) E72 [['B', 'G', 'O', 'R']] = (RunResult.solved ['O', 'Y', 'B', 'P'] 3, [['G', 'Y', 'R', 'P'], ['O', 'Y', 'B', 'P']]))) rfl
  refine (loopRun_step ['O', 'Y', 'B', 'P'] 6 5 ['G', 'Y', 'R', 'P'] E72 [['B', 'G', 'O', 'R']] 0 2 [['O', 'Y', 'B', 'P']] ['O', 'Y', 'B', 'P'] [['B', 'G', 'O', 'R'], ['G', 'Y', 'R', 'P']] rfl ((calc_eq_fastP ['O', 'Y', 'B', 'P'] ['G', 'Y', 'R', 'P'] (by decide) (by decide)).trans (by decide)) (by decide) pe162 rfl (findNextGuess_singleton ['O', 'Y', 'B', 'P'] [['B', 'G', 'O', 'R'], ['G', 'Y', 'R', 'P']]) (by decide) (by decide) (by decide)).trans ?_
  refine Eq.trans (step_lift ['G', 'Y', 'R', 'P'] (?_ : loopRun (honest ['O', 'Y', 'B', 'P']) 5 (some ['O', 'Y', 'B', 'P']) [['O', 'Y', 'B', 'P']] [['B', 'G', 'O', 'R'], ['G', 'Y', 'R', 'P']] = (RunResult.solved ['O', 'Y', 'B', 'P'] 3, [['O', 'Y', 'B', 'P']]))) rfl
  exact loopRun_last ['O', 'Y', 'B', 'P'] 5 4 [['O', 'Y', 'B', 'P']] [['B', 'G', 'O', 'R'], ['G', 'Y', 'R', 'P']] rfl rfl (by decide)

lemma rs159 : loopRun (honest ['O', 'Y', 'G', 'B']) 7 none S0 [] =
    (RunResult.solved ['O', 'Y', 'G', 'B'] 4, [['B', 'G', 'O', 'R'], ['G', 'O', 'R', 'Y'], ['O', 'B', 'Y', 'G'], ['O', 'Y', 'G', 'B']]) := by
  refine (loopRun_none' (honest ['O', 'Y', 'G', 'B']) 7 S0 []).trans ?_
  refine (loopRun_step ['O', 'Y', 'G', 'B'] 7 6 ['B', 'G', 'O', 'R'] S0 [] 3 0 E65 ['G', 'O', 'R', 'Y'] [['B', 'G', 'O', 'R']] rfl ((calc_eq_fastP ['O', 'Y', 'G', 'B'] ['B', 'G', 'O', 'R'] (by decide) (by decide)).trans (by decide)) (by decide) pe65 rfl nx65 (by decide) (by decide) (by decide)).trans ?_
  refine Eq.trans (step_lift ['B', 'G', 'O', 'R'] (?_ : loopRun (honest ['O', 'Y', 'G', 'B']) 6 (some ['G', 'O', 'R', 'Y']) E65 [['B', 'G', 'O', 'R']] = (RunResult.solved ['O', 'Y', 'G', 'B'] 4, [['G', 'O', 'R', 'Y'], ['O', 'B', 'Y', 'G'], ['O', 'Y', 'G', 'B']]))) rfl
  refine (loopRun_step ['O', 'Y', 'G', 'B'] 6 5 ['G', 'O', 'R', 'Y'] E65 [['B', 'G', 'O', 'R']] 3 0 E128 ['O', 'B', 'Y', 'G'] [['B', 'G', 'O', 'R'], ['G', 'O', 'R', 'Y']] rfl ((calc_eq_fastP ['O', 'Y', 'G', 'B'] ['G', 'O', 'R', 'Y'] (by decide) (by decide)).trans (by decide)) (by decide) pe128 rfl nx128 (by decide) (by decide) (by decide)).trans ?_
  refine Eq.trans (step_lift ['G', 'O', 'R', 'Y'] (?_ : loopRun (honest ['O', 'Y', 'G', 'B']) 5 (some ['O', 'B', 'Y', 'G']) E128 [['B', 'G', 'O', 'R'], ['G', 'O', 'R', 'Y']] = (RunResult.solved ['O', 'Y', 'G', 'B'] 4, [['O', 'B', 'Y', 'G'], ['O', 'Y', 'G', 'B']]))) rfl
  refine (loopRun_step ['O', 'Y', 'G', 'B'] 5 4 ['O', 'B', 'Y', 'G'] E128 [['B', 'G', 'O', 'R'], ['G', 'O', 'R', 'Y']] 3 1 E163 ['O', 'Y', 'G', 'B'] [['B', 'G', 'O', 'R'], ['G', 'O', 'R', 'Y'], ['O', 'B', 'Y', 'G']] rfl ((calc_eq_fastP ['O', 'Y', 'G', 'B'] ['O', 'B', 'Y', 'G'] (by decide) (by decide)).trans (by decide)) (by decide) pe163 rfl nx163 (by decide) (by decide) (by decide)).trans ?_
  refine Eq.trans (step_lift ['O', 'B', 'Y', 'G'] (?_ : loopRun (honest ['O', 'Y', 'G', 'B']) 4 (some ['O', 'Y', 'G', 'B']) E163 [['B', 'G', 'O', 'R'], ['G', 'O', 'R', 'Y'], ['O', 'B', 'Y', 'G']] = (RunResult.solved ['O', 'Y', 'G', 'B'] 4, [['O', 'Y', 'G', 'B']]))) rfl
  exact loopRun_last ['O', 'Y', 'G', 'B'] 4 3 E163 [['B', 'G', 'O', 'R'], ['G', 'O', 'R', 'Y'], ['O', 'B', 'Y', 'G']] rfl rfl (by decide)

lemma rs160 : loopRun (honest ['O', 'Y', 'G', 'R']) 7 none S0 [] =
    (RunResult.solved ['O', 'Y', 'G', 'R'] 3, [['B', 'G', 'O', 'R'], ['B', 'O', 'R', 'Y'], ['O', 'Y', 'G', 'R']]) := by
  refine (loopRun_none' (honest ['O', 'Y', 'G', 'R']) 7 S0 []).trans ?_
  refine (loopRun_step ['O', 'Y', 'G', 'R'] 7 6 ['B', 'G', 'O', 'R'] S0 [] 2 1 E13 ['B', 'O', 'R', 'Y'] [['B', 'G', 'O', 'R']] rfl ((calc_eq_fastP ['O', 'Y', 'G', 'R'] ['B', 'G', 'O', 'R'] (by decide) (by decide)).trans (by decide)) (by decide) pe13 rfl nx13 (by decide) (by decide) (by decide)).trans ?_
  refine Eq.trans (step_lift ['B', 'G', 'O', 'R'] (?_ : loopRun (honest ['O', 'Y', 'G', 'R']) 6 (some ['B', 'O', 'R', 'Y']) E13 [['B', 'G', 'O', 'R']] = (RunResult.solved ['O', 'Y', 'G', 'R'] 3, [['B', 'O', 'R', 'Y'], ['O', 'Y', 'G', 'R']]))) rfl
  refine (loopRun_step ['O', 'Y', 'G', 'R'] 6 5 ['B', 'O', 'R', 'Y'] E13 [['B', 'G', 'O', 'R']] 3 0 E69 ['O', 'Y', 'G', 'R'] [['B', 'G', 'O', 'R'], ['B', 'O', 'R', 'Y']] rfl ((calc_eq_fastP ['O', 'Y', 'G', 'R'] ['B', 'O', 'R', 'Y'] (by decide) (by decide)).trans (by decide)) (by decide) pe69 rfl nx69 (by decide) (by decide) (by decide)).trans ?_
  refine Eq.trans (step_lift ['B', 'O', 'R', 'Y'] (?_ : loopRun (honest ['O', 'Y', 'G', 'R']) 5 (some ['O', 'Y', 'G', 'R']) E69 [['B', 'G', 'O', 'R'], ['B', 'O', 'R', 'Y']] = (RunResult.solved ['O', 'Y', 'G', 'R'] 3, [['O', 'Y', 'G', 'R']]))) rfl
  exact loopRun_last ['O', 'Y', 'G', 'R'] 5 4 E69 [['B', 'G', 'O', 'R'], ['B', 'O', 'R', 'Y']] rfl rfl (by decide)

lemma rs161 : loopRun (honest ['O', 'Y', 'G', 'P']) 7 none S0 [] =
    (RunResult.solved ['O', 'Y', 'G', 'P'] 5, [['B', 'G', 'O', 'R'], ['G', 'Y', 'R', 'P'], ['G', 'O', 'Y', 'P'], ['G', 'Y', 'P', 'O'], ['O', 'Y', 'G', 'P']]) := by
  refine (loopRun_none' (honest ['O', 'Y', 'G', 'P']) 7 S0 []).trans ?_
  refine (loopRun_step ['O', 'Y', 'G', 'P'] 7 6 ['B', 'G', 'O', 'R'] S0 [] 2 0 E72 ['G', 'Y', 'R', 'P'] [['B', 'G', 'O', 'R']] rfl ((calc_eq_fastP ['O', 'Y', 'G', 'P'] ['B', 'G', 'O', 'R'] (by decide) (by decide)).trans (by decide)) (by decide) pe72 rfl nx72 (by decide) (by decide) (by decide)).trans ?_
  refine Eq.trans (step_lift ['B', 'G', 'O', 'R'] (?_ : loopRun (honest ['O', 'Y', 'G', 'P']) 6 (some ['G', 'Y', 'R', 'P']) E72 [['B', 'G', 'O', 'R']] = (RunResult.solved ['O', 'Y', 'G', 'P'] 5, [['G', 'Y', 'R', 'P'], ['G', 'O', 'Y', 'P'], ['G', 'Y', 'P', 'O'], ['O', 'Y', 'G', 'P']]))) rfl
  refine (loopRun_step ['O', 'Y', 'G', 'P'] 6 5 ['G', 'Y', 'R', 'P'] E72 [['B', 'G', 'O', 'R']] 1 2 E73 ['G', 'O', 'Y', 'P'] [['B', 'G', 'O', 'R'], ['G', 'Y', 'R', 'P']] rfl ((calc_eq_fastP ['O', 'Y', 'G', 'P'] ['G', 'Y', 'R', 'P'] (by decide) (by decide)).trans (by decide)) (by decide) pe73 rfl nx73 (by decide) (by decide) (by decide)).trans ?_
  refine Eq.trans (step_lift ['G', 'Y', 'R', 'P'] (?_ : loopRun (honest ['O', 'Y', 'G', 'P']) 5 (some ['G', 'O', 'Y', 'P']) E73 [['B', 'G', 'O', 'R'], ['G', 'Y', 'R', 'P']] = (RunResult.solved ['O', 'Y', 'G', 'P'] 5, [['G', 'O', 'Y', 'P'], ['G', 'Y', 'P', 'O'], ['O', 'Y', 'G', 'P']]))) rfl
  refine (loopRun_step ['O', 'Y', 'G', 'P'] 5 4 ['G', 'O', 'Y', 'P'] E73 [['B', 'G', 'O', 'R'], ['G', 'Y', 'R', 'P']] 3 1 E108 ['G', 'Y', 'P', 'O'] [['B', 'G', 'O', 'R'], ['G', 'Y', 'R', 'P'], ['G', 'O', 'Y', 'P']] rfl ((calc_eq_fastP ['O', 'Y', 'G', 'P'] ['G', 'O', 'Y', 'P'] (by decide) (by decide)).trans (by decide)) (by decide) pe108 rfl nx108 (by decide) (by decide) (by decide)).trans ?_
  refine Eq.trans (step_lift ['G', 'O', 'Y', 'P'] (?_ : loopRun (honest ['O', 'Y', 'G', 'P']) 4 (some ['G', 'Y', 'P', 'O']) E108 [['B', 'G', 'O', 'R'], ['G', 'Y', 'R', 'P'], ['G', 'O', 'Y', 'P']] = (RunResult.solved ['O', 'Y', 'G', 'P'] 5, [['G', 'Y', 'P', 'O'], ['O', 'Y', 'G', 'P']]))) rfl
  refine (loopRun_step ['O', 'Y', 'G', 'P'] 4 3 ['G', 'Y', 'P', 'O'] E108 [['B', 'G', 'O', 'R'], ['G', 'Y', 'R', 'P'], ['G', 'O', 'Y', 'P']] 3 1 [['O', 'Y', 'G', 'P']] ['O', 'Y', 'G', 'P'] [['B', 'G', 'O', 'R'], ['G', 'Y', 'R', 'P'], ['G', 'O', 'Y', 'P'], ['G', 'Y', 'P', 'O']] rfl ((calc_eq_fastP ['O', 'Y', 'G', 'P'] ['G', 'Y', 'P', 'O'] (by decide) (by decide)).trans (by decide)) (by decide) pe164 rfl (findNextGuess_singleton ['O', 'Y', 'G', 'P'] [['B', 'G', 'O', 'R'], ['G', 'Y', 'R', 'P'], ['G', 'O', 'Y', 'P'], ['G', 'Y', 'P', 'O']]) (by decide) (by decide) (by decide)).trans ?_
  refine Eq.trans (step_lift ['G', 'Y', 'P', 'O'] (?_ : loopRun (honest ['O', 'Y', 'G', 'P']) 3 (some ['O', 'Y', 'G', 'P']) [['O', 'Y', 'G', 'P']] [['B', 'G', 'O', 'R'], ['G', 'Y', 'R', 'P'], ['G', 'O', 'Y', 'P'], ['G', 'Y', 'P', 'O']] = (RunResult.solved ['O', 'Y', 'G', 'P'] 5, [['O', 'Y', 'G', 'P']]))) rfl
  exact loopRun_last ['O', 'Y', 'G', 'P'] 3 2 [['O', 'Y', 'G', 'P']] [['B', 'G', 'O', 'R'], ['G', 'Y', 'R', 'P'], ['G', 'O', 'Y', 'P'], ['G', 'Y', 'P', 'O']] rfl rfl (by decide)

lemma rs162 : loopRun (honest ['O', 'Y', 'R', 'B']) 7 none S0 [] =
    (RunResult.solved ['O', 'Y', 'R', 'B'] 5, [['B', 'G', 'O', 'R'], ['G', 'O', 'R', 'Y'], ['G', 'B', 'Y', 'O'], ['O', 'R', 'B', 'Y'], ['O', 'Y', 'R', 'B']]) := by
  refine (loopRun_none' (honest ['O', 'Y', 'R', 'B']) 7 S0 []).trans ?_
  refine (loopRun_step ['O', 'Y', 'R', 'B'] 7 6 ['B', 'G', 'O', 'R'] S0 [] 3 0 E65 ['G', 'O', 'R', 'Y'] [['B', 'G', 'O', 'R']] rfl ((calc_eq_fastP ['O', 'Y', 'R', 'B'] ['B', 'G', 'O', 'R'] (by decide) (by decide)).trans (by decide)) (by decide) pe65 rfl nx65 (by decide) (by decide) (by decide)).trans ?_
  refine Eq.trans (step_lift ['B', 'G', 'O', 'R'] (?_ : loopRun (honest ['O', 'Y', 'R', 'B']) 6 (some ['G', 'O', 'R', 'Y']) E65 [['B', 'G', 'O', 'R']] = (RunResult.solved ['O', 'Y', 'R', 'B'] 5, [['G', 'O', 'R', 'Y'], ['G', 'B', 'Y', 'O'], ['O', 'R', 'B', 'Y'], ['O', 'Y', 'R', 'B']]))) rfl
  refine (loopRun_step ['O', 'Y', 'R', 'B'] 6 5 ['G', 'O', 'R', 'Y'] E65 [['B', 'G', 'O', 'R']] 2 1 E68 ['G', 'B', 'Y', 'O'] [['B', 'G', 'O', 'R'], ['G', 'O', 'R', 'Y']] rfl ((calc_eq_fastP ['O', 'Y', 'R', 'B'] ['G', 'O', 'R', 'Y'] (by decide) (by decide)).trans (by decide)) (by decide) pe68 rfl nx68 (by decide) (by decide) (by decide)).trans ?_
  refine Eq.trans (step_lift ['G', 'O', 'R', 'Y'] (?_ : loopRun (honest ['O', 'Y', 'R', 'B']) 5 (some ['G', 'B', 'Y', 'O']) E68 [['B', 'G', 'O', 'R'], ['G', 'O', 'R', 'Y']] = (RunResult.solved ['O', 'Y', 'R', 'B'] 5, [['G', 'B', 'Y', 'O'], ['O', 'R', 'B', 'Y'], ['O', 'Y', 'R', 'B']]))) rfl
  refine (loopRun_step ['O', 'Y', 'R', 'B'] 5 4 ['G', 'B', 'Y', 'O'] E68 [['B', 'G', 'O', 'R'], ['G', 'O', 'R', 'Y']] 3 0 E147 ['O', 'R', 'B', 'Y'] [['B', 'G', 'O', 'R'], ['G', 'O', 'R', 'Y'], ['G', 'B', 'Y', 'O']] rfl ((calc_eq_fastP ['O', 'Y', 'R', 'B'] ['G', 'B', 'Y', 'O'] (by decide) (by decide)).trans (by decide)) (by decide) pe147 rfl nx147 (by decide) (by decide) (by decide)).trans ?_
  refine Eq.trans (step_lift ['G', 'B', 'Y', 'O'] (?_ : loopRun (honest ['O', 'Y', 'R', 'B']) 4 (some ['O', 'R', 'B', 'Y']) E147 [['B', 'G', 'O', 'R'], ['G', 'O', 'R', 'Y'], ['G', 'B', 'Y', 'O']] = (RunResult.solved ['O', 'Y', 'R', 'B'] 5, [['O', 'R', 'B', 'Y'], ['O', 'Y', 'R', 'B']]))) rfl
  refine (loopRun_step ['O', 'Y', 'R', 'B'] 4 3 ['O', 'R', 'B', 'Y'] E147 [['B', 'G', 'O', 'R'], ['G', 'O', 'R', 'Y'], ['G', 'B', 'Y', 'O']] 3 1 [['O', 'Y', 'R', 'B']] ['O', 'Y', 'R', 'B'] [['B', 'G', 'O', 'R'], ['G', 'O', 'R', 'Y'], ['G', 'B', 'Y', 'O'], ['O', 'R', 'B', 'Y']] rfl ((calc_eq_fastP ['O', 'Y', 'R', 'B'] ['O', 'R', 'B', 'Y'] (by decide) (by decide)).trans (by decide)) (by decide) pe165 rfl (findNextGuess_singleton ['O', 'Y', 'R', 'B'] [['B', 'G', 'O', 'R'], ['G', 'O', 'R', 'Y'], ['G', 'B', 'Y', 'O'], ['O', 'R', 'B', 'Y']]) (by decide) (by decide) (by decide)).trans ?_
  refine Eq.trans (step_lift ['O', 'R', 'B', 'Y'] (?_ : loopRun (honest ['O', 'Y', 'R', 'B']) 3 (some ['O', 'Y', 'R', 'B']) [['O', 'Y', 'R', 'B']] [['B', 'G', 'O', 'R'], ['G', 'O', 'R', 'Y'], ['G', 'B', 'Y', 'O'], ['O', 'R', 'B', 'Y']] = (RunResult.solved ['O', 'Y', 'R', 'B'] 5, [['O', 'Y', 'R', 'B']]))) rfl
  exact loopRun_last ['O', 'Y', 'R', 'B'] 3 2 [['O', 'Y', 'R', 'B']] [['B', 'G', 'O', 'R'], ['G', 'O', 'R', 'Y'], ['G', 'B', 'Y', 'O'], ['O', 'R', 'B', 'Y']] rfl rfl (by decide)

lemma rs163 : loopRun (honest ['O', 'Y', 'R', 'G']) 7 none S0 [] =
    (RunResult.solved ['O', 'Y', 'R', 'G'] 4, [['B', 'G', 'O', 'R'], ['G', 'O', 'R', 'Y'], ['G', 'R', 'Y', 'O'], ['O', 'Y', 'R', 'G']]) := by
  refine (loopRun_none' (honest ['O', 'Y', 'R', 'G']) 7 S0 []).trans ?_
  refine (loopRun_step ['O', 'Y', 'R', 'G'] 7 6 ['B', 'G', 'O', 'R'] S0 [] 3 0 E65 ['G', 'O', 'R', 'Y'] [['B', 'G', 'O', 'R']] rfl ((calc_eq_fastP ['O', 'Y', 'R', 'G'] ['B', 'G', 'O', 'R'] (by decide) (by decide)).trans (by decide)) (by decide) pe65 rfl nx65 (by decide) (by decide) (by decide)).trans ?_
  refine Eq.trans (step_lift ['B', 'G', 'O', 'R'] (?_ : loopRun (honest ['O', 'Y', 'R', 'G']) 6 (some ['G', 'O', 'R', 'Y']) E65 [['B', 'G', 'O', 'R']] = (RunResult.solved ['O', 'Y', 'R', 'G'] 4, [['G', 'O', 'R', 'Y'], ['G', 'R', 'Y', 'O'], ['O', 'Y', 'R', 'G']]))) rfl
  refine (loopRun_step ['O', 'Y', 'R', 'G'] 6 5 ['G', 'O', 'R', 'Y'] E65 [['B', 'G', 'O', 'R']] 3 1 E95 ['G', 'R', 'Y', 'O'] [['B', 'G', 'O', 'R'], ['G', 'O', 'R', 'Y']] rfl ((calc_eq_fastP ['O', 'Y', 'R', 'G'] ['G', 'O', 'R', 'Y'] (by decide) (by decide)).trans (by decide)) (by decide) pe95 rfl nx95 (by decide) (by decide) (by decide)).trans ?_
  refine Eq.trans (step_lift ['G', 'O', 'R', 'Y'] (?_ : loopRun (honest ['O', 'Y', 'R', 'G']) 5 (some ['G', 'R', 'Y', 'O']) E95 [['B', 'G', 'O', 'R'], ['G', 'O', 'R', 'Y']] = (RunResult.solved ['O', 'Y', 'R', 'G'] 4, [['G', 'R', 'Y', 'O'], ['O', 'Y', 'R', 'G']]))) rfl
  refine (loopRun_step ['O', 'Y', 'R', 'G'] 5 4 ['G', 'R', 'Y', 'O'] E95 [['B', 'G', 'O', 'R'], ['G', 'O', 'R', 'Y']] 4 0 [['O', 'Y', 'R', 'G']] ['O', 'Y', 'R', 'G'] [['B', 'G', 'O', 'R'], ['G', 'O', 'R', 'Y'], ['G', 'R', 'Y', 'O']] rfl ((calc_eq_fastP ['O', 'Y', 'R', 'G'] ['G', 'R', 'Y', 'O'] (by decide) (by decide)).trans (by decide)) (by decide) pe166 rfl (findNextGuess_singleton ['O', 'Y', 'R', 'G'] [['B', 'G', 'O', 'R'], ['G', 'O', 'R', 'Y'], ['G', 'R', 'Y', 'O']]) (by decide) (by decide) (by decide)).trans ?_
  refine Eq.trans (step_lift ['G', 'R', 'Y', 'O'] (?_ : loopRun (honest ['O', 'Y', 'R', 'G']) 4 (some ['O', 'Y', 'R', 'G']) [['O', 'Y', 'R', 'G']] [['B', 'G', 'O', 'R'], ['G', 'O', 'R', 'Y'], ['G', 'R', 'Y', 'O']] = (RunResult.solved ['O', 'Y', 'R', 'G'] 4, [['O', 'Y', 'R', 'G']]))) rfl
  exact loopRun_last ['O', 'Y', 'R', 'G'] 4 3 [['O', 'Y', 'R', 'G']] [['B', 'G', 'O', 'R'], ['G', 'O', 'R', 'Y'], ['G', 'R', 'Y', 'O']] rfl rfl (by decide)

lemma rs164 : loopRun (honest ['O', 'Y', 'R', 'P']) 7 none S0 [] =
    (RunResult.solved ['O', 'Y', 'R', 'P'] 4, [['B', 'G', 'O', 'R'], ['G', 'Y', 'R', 'P'], ['G', 'Y', 'B', 'P'], ['O', 'Y', 'R', 'P']]) := by
  refine (loopRun_none' (honest ['O', 'Y', 'R', 'P']) 7 S0 []).trans ?_
  refine (loopRun_step ['O', 'Y', 'R', 'P'] 7 6 ['B', 'G', 'O', 'R'] S0 [] 2 0 E72 ['G', 'Y', 'R', 'P'] [['B', 'G', 'O', 'R']] rfl ((calc_eq_fastP ['O', 'Y', 'R', 'P'] ['B', 'G', 'O', 'R'] (by decide) (by decide)).trans (by decide)) (by decide) pe72 rfl nx72 (by decide) (by decide) (by decide)).trans ?_
  refine Eq.trans (step_lift ['B', 'G', 'O', 'R'] (?_ : loopRun (honest ['O', 'Y', 'R', 'P']) 6 (some ['G', 'Y', 'R', 'P']) E72 [['B', 'G', 'O', 'R']] = (RunResult.solved ['O', 'Y', 'R', 'P'] 4, [['G', 'Y', 'R', 'P'], ['G', 'Y', 'B', 'P'], ['O', 'Y', 'R', 'P']]))) rfl
  refine (loopRun_step ['O', 'Y', 'R', 'P'] 6 5 ['G', 'Y', 'R', 'P'] E72 [['B', 'G', 'O', 'R']] 0 3 E102 ['G', 'Y', 'B', 'P'] [['B', 'G', 'O', 'R'], ['G', 'Y', 'R', 'P']] rfl ((calc_eq_fastP ['O', 'Y', 'R', 'P'] ['G', 'Y', 'R', 'P'] (by decide) (by decide)).trans (by decide)) (by decide) pe102 rfl nx102 (by decide) (by decide) (by decide)).trans ?_
  refine Eq.trans (step_lift ['G', 'Y', 'R', 'P'] (?_ : loopRun (honest ['O', 'Y', 'R', 'P']) 5 (some ['G', 'Y', 'B', 'P']) E102 [['B', 'G', 'O', 'R'], ['G', 'Y', 'R', 'P']] = (RunResult.solved ['O', 'Y', 'R', 'P'] 4, [['G', 'Y', 'B', 'P'], ['O', 'Y', 'R', 'P']]))) rfl
  refine (loopRun_step ['O', 'Y', 'R', 'P'] 5 4 ['G', 'Y', 'B', 'P'] E102 [['B', 'G', 'O', 'R'], ['G', 'Y', 'R', 'P']] 0 2 [['O', 'Y', 'R', 'P']] ['O', 'Y', 'R', 'P'] [['B', 'G', 'O', 'R'], ['G', 'Y', 'R', 'P'], ['G', 'Y', 'B', 'P']] rfl ((calc_eq_fastP ['O', 'Y', 'R', 'P'] ['G', 'Y', 'B', 'P'] (by decide) (by decide)).trans (by decide)) (by decide) pe167 rfl (findNextGuess_singleton ['O', 'Y', 'R', 'P'] [['B', 'G', 'O', 'R'], ['G', 'Y', 'R', 'P'], ['G', 'Y', 'B', 'P']]) (by decide) (by decide) (by decide)).trans ?_
  refine Eq.trans (step_lift ['G', 'Y', 'B', 'P'] (?_ : loopRun (honest ['O', 'Y', 'R', 'P']) 4 (some ['O', 'Y', 'R', 'P']) [['O', 'Y', 'R', 'P']] [['B', 'G', 'O', 'R'], ['G', 'Y', 'R', 'P'], ['G', 'Y', 'B', 'P']] = (RunResult.solved ['O', 'Y', 'R', 'P'] 4, [['O', 'Y', 'R', 'P']]))) rfl
  exact loopRun_last ['O', 'Y', 'R', 'P'] 4 3 [['O', 'Y', 'R', 'P']] [['B', 'G', 'O', 'R'], ['G', 'Y', 'R', 'P'], ['G', 'Y', 'B', 'P']] rfl rfl (by decide)

lemma rs165 : loopRun (honest ['O', 'Y', 'P', 'B']) 7 none S0 [] =
    (RunResult.solved ['O', 'Y', 'P', 'B'] 4, [['B', 'G', 'O', 'R'], ['G', 'Y', 'R', 'P'], ['O', 'B', 'Y', 'P'], ['O', 'Y', 'P', 'B']]) := by
  refine (loopRun_none' (honest ['O', 'Y', 'P', 'B']) 7 S0 []).trans ?_
  refine (loopRun_step ['O', 'Y', 'P', 'B'] 7 6 ['B', 'G', 'O', 'R'] S0 [] 2 0 E72 ['G', 'Y', 'R', 'P'] [['B', 'G', 'O', 'R']] rfl ((calc_eq_fastP ['O', 'Y', 'P', 'B'] ['B', 'G', 'O', 'R'] (by decide) (by decide)).trans (by decide)) (by decide) pe72 rfl nx72 (by decide) (by decide) (by decide)).trans ?_
  refine Eq.trans (step_lift ['B', 'G', 'O', 'R'] (?_ : loopRun (honest ['O', 'Y', 'P', 'B']) 6 (some ['G', 'Y', 'R', 'P']) E72 [['B', 'G', 'O', 'R']] = (RunResult.solved ['O', 'Y', 'P', 'B'] 4, [['G', 'Y', 'R', 'P'], ['O', 'B', 'Y', 'P'], ['O', 'Y', 'P', 'B']]))) rfl
  refine (loopRun_step ['O', 'Y', 'P', 'B'] 6 5 ['G', 'Y', 'R', 'P'] E72 [['B', 'G', 'O', 'R']] 1 1 E131 ['O', 'B', 'Y', 'P'] [['B', 'G', 'O', 'R'], ['G', 'Y', 'R', 'P']] rfl ((calc_eq_fastP ['O', 'Y', 'P', 'B'] ['G', 'Y', 'R', 'P'] (by decide) (by decide)).trans (by decide)) (by decide) pe131 rfl nx131 (by decide) (by decide) (by decide)).trans ?_
  refine Eq.trans (step_lift ['G', 'Y', 'R', 'P'] (?_ : loopRun (honest ['O', 'Y', 'P', 'B']) 5 (some ['O', 'B', 'Y', 'P']) E131 [['B', 'G', 'O', 'R'], ['G', 'Y', 'R', 'P']] = (RunResult.solved ['O', 'Y', 'P', 'B'] 4, [['O', 'B', 'Y', 'P'], ['O', 'Y', 'P', 'B']]))) rfl
  refine (loopRun_step ['O', 'Y', 'P', 'B'] 5 4 ['O', 'B', 'Y', 'P'] E131 [['B', 'G', 'O', 'R'], ['G', 'Y', 'R', 'P']] 3 1 E168 ['O', 'Y', 'P', 'B'] [['B', 'G', 'O', 'R'], ['G', 'Y', 'R', 'P'], ['O', 'B', 'Y', 'P']] rfl ((calc_eq_fastP ['O', 'Y', 'P', 'B'] ['O', 'B', 'Y', 'P'] (by decide) (by decide)).trans (by decide)) (by decide) pe168 rfl nx168 (by decide) (by decide) (by decide)).trans ?_
  refine Eq.trans (step_lift ['O', 'B', 'Y', 'P'] (?_ : loopRun (honest ['O', 'Y', 'P', 'B']) 4 (some ['O', 'Y', 'P', 'B']) E168 [['B', 'G', 'O', 'R'], ['G', 'Y', 'R', 'P'], ['O', 'B', 'Y', 'P']] = (RunResult.solved ['O', 'Y', 'P', 'B'] 4, [['O', 'Y', 'P', 'B']]))) rfl
  exact loopRun_last ['O', 'Y', 'P', 'B'] 4 3 E168 [['B', 'G', 'O', 'R'], ['G', 'Y', 'R', 'P'], ['O', 'B', 'Y', 'P']] rfl rfl (by decide)

lemma rs166 : loopRun (honest ['O', 'Y', 'P', 'G']) 7 none S0 [] =
    (RunResult.solved ['O', 'Y', 'P', 'G'] 5, [['B', 'G', 'O', 'R'], ['G', 'Y', 'R', 'P'], ['G', 'B', 'P', 'Y'], ['G', 'P', 'Y', 'O'], ['O', 'Y', 'P', 'G']]) := by
  refine (loopRun_none' (honest ['O', 'Y', 'P', 'G']) 7 S0 []).trans ?_
  refine (loopRun_step ['O', 'Y', 'P', 'G'] 7 6 ['B', 'G', 'O', 'R'] S0 [] 2 0 E72 ['G', 'Y', 'R', 'P'] [['B', 'G', 'O', 'R']] rfl ((calc_eq_fastP ['O', 'Y', 'P', 'G'] ['B', 'G', 'O', 'R'] (by decide) (by decide)).trans (by decide)) (by decide) pe72 rfl nx72 (by decide) (by decide) (by decide)).trans ?_
  refine Eq.trans (step_lift ['B', 'G', 'O', 'R'] (?_ : loopRun (honest ['O', 'Y', 'P', 'G']) 6 (some ['G', 'Y', 'R', 'P']) E72 [['B', 'G', 'O', 'R']] = (RunResult.solved ['O', 'Y', 'P', 'G'] 5, [['G', 'Y', 'R', 'P'], ['G', 'B', 'P', 'Y'], ['G', 'P', 'Y', 'O'], ['O', 'Y', 'P', 'G']]))) rfl
  refine (loopRun_step ['O', 'Y', 'P', 'G'] 6 5 ['G', 'Y', 'R', 'P'] E72 [['B', 'G', 'O', 'R']] 2 1 E78 ['G', 'B', 'P', 'Y'] [['B', 'G', 'O', 'R'], ['G', 'Y', 'R', 'P']] rfl ((calc_eq_fastP ['O', 'Y', 'P', 'G'] ['G', 'Y', 'R', 'P'] (by decide) (by decide)).trans (by decide)) (by decide) pe78 rfl nx78 (by decide) (by decide) (by decide)).trans ?_
  refine Eq.trans (step_lift ['G', 'Y', 'R', 'P'] (?_ : loopRun (honest ['O', 'Y', 'P', 'G']) 5 (some ['G', 'B', 'P', 'Y']) E78 [['B', 'G', 'O', 'R'], ['G', 'Y', 'R', 'P']] = (RunResult.solved ['O', 'Y', 'P', 'G'] 5, [['G', 'B', 'P', 'Y'], ['G', 'P', 'Y', 'O'], ['O', 'Y', 'P', 'G']]))) rfl
  refine (loopRun_step ['O', 'Y', 'P', 'G'] 5 4 ['G', 'B', 'P', 'Y'] E78 [['B', 'G', 'O', 'R'], ['G', 'Y', 'R', 'P']] 2 1 E119 ['G', 'P', 'Y', 'O'] [['B', 'G', 'O', 'R'], ['G', 'Y', 'R', 'P'], ['G', 'B', 'P', 'Y']] rfl ((calc_eq_fastP ['O', 'Y', 'P', 'G'] ['G', 'B', 'P', 'Y'] (by decide) (by decide)).trans (by decide)) (by decide) pe119 rfl nx119 (by decide) (by decide) (by decide)).trans ?_
  refine Eq.trans (step_lift ['G', 'B', 'P', 'Y'] (?_ : loopRun (honest ['O', 'Y', 'P', 'G']) 4 (some ['G', 'P', 'Y', 'O']) E119 [['B', 'G', 'O', 'R'], ['G', 'Y', 'R', 'P'], ['G', 'B', 'P', 'Y']] = (RunResult.solved ['O', 'Y', 'P', 'G'] 5, [['G', 'P', 'Y', 'O'], ['O', 'Y', 'P', 'G']]))) rfl
  refine (loopRun_step ['O', 'Y', 'P', 'G'] 4 3 ['G', 'P', 'Y', 'O'] E119 [['B', 'G', 'O', 'R'], ['G', 'Y', 'R', 'P'], ['G', 'B', 'P', 'Y']] 4 0 [['O', 'Y', 'P', 'G']] ['O', 'Y', 'P', 'G'] [['B', 'G', 'O', 'R'], ['G', 'Y', 'R', 'P'], ['G', 'B', 'P', 'Y'], ['G', 'P', 'Y', 'O']] rfl ((calc_eq_fastP ['O', 'Y', 'P', 'G'] ['G', 'P', 'Y', 'O'] (by decide) (by decide)).trans (by decide)) (by decide) pe169 rfl (findNextGuess_singleton ['O', 'Y', 'P', 'G'] [['B', 'G', 'O', 'R'], ['G', 'Y', 'R', 'P'], ['G', 'B', 'P', 'Y'], ['G', 'P', 'Y', 'O']]) (by decide) (by decide) (by decide)).trans ?_
  refine Eq.trans (step_lift ['G', 'P', 'Y', 'O'] (?_ : loopRun (honest ['O', 'Y', 'P', 'G']) 3 (some ['O', 'Y', 'P', 'G']) [['O', 'Y', 'P', 'G']] [['B', 'G', 'O', 'R'], ['G', 'Y', 'R', 'P'], ['G', 'B', 'P', 'Y'], ['G', 'P', 'Y', 'O']] = (RunResult.solved ['O', 'Y', 'P', 'G'] 5, [['O', 'Y', 'P', 'G']]))) rfl
  exact loopRun_last ['O', 'Y', 'P', 'G'] 3 2 [['O', 'Y', 'P', 'G']] [['B', 'G', 'O', 'R'], ['G', 'Y', 'R', 'P'], ['G', 'B', 'P', 'Y'], ['G', 'P', 'Y', 'O']] rfl rfl (by decide)

lemma rs167 : loopRun (honest ['O', 'Y', 'P', 'R']) 7 none S0 [] =
    (RunResult.solved ['O', 'Y', 'P', 'R'] 4, [['B', 'G', 'O', 'R'], ['B', 'O', 'Y', 'P'], ['G', 'P', 'O', 'Y'], ['O', 'Y', 'P', 'R']]) := by
  refine (loopRun_none' (honest ['O', 'Y', 'P', 'R']) 7 S0 []).trans ?_
  refine (loopRun_step ['O', 'Y', 'P', 'R'] 7 6 ['B', 'G', 'O', 'R'] S0 [] 1 1 E20 ['B', 'O', 'Y', 'P'] [['B', 'G', 'O', 'R']] rfl ((calc_eq_fastP ['O', 'Y', 'P', 'R'] ['B', 'G', 'O', 'R'] (by decide) (by decide)).trans (by decide)) (by decide) pe20 rfl nx20 (by decide) (by decide) (by decide)).trans ?_
  refine Eq.trans (step_lift ['B', 'G', 'O', 'R'] (?_ : loopRun (honest ['O', 'Y', 'P', 'R']) 6 (some ['B', 'O', 'Y', 'P']) E20 [['B', 'G', 'O', 'R']] = (RunResult.solved ['O', 'Y', 'P', 'R'] 4, [['B', 'O', 'Y', 'P'], ['G', 'P', 'O', 'Y'], ['O', 'Y', 'P', 'R']]))) rfl
  refine (loopRun_step ['O', 'Y', 'P', 'R'] 6 5 ['B', 'O', 'Y', 'P'] E20 [['B', 'G', 'O', 'R']] 3 0 E114 ['G', 'P', 'O', 'Y'] [['B', 'G', 'O', 'R'], ['B', 'O', 'Y', 'P']] rfl ((calc_eq_fastP ['O', 'Y', 'P', 'R'] ['B', 'O', 'Y', 'P'] (by decide) (by decide)).trans (by decide)) (by decide) pe114 rfl nx114 (by decide) (by decide) (by decide)).trans ?_
  refine Eq.trans (step_lift ['B', 'O', 'Y', 'P'] (?_ : loopRun (honest ['O', 'Y', 'P', 'R']) 5 (some ['G', 'P', 'O', 'Y']) E114 [['B', 'G', 'O', 'R'], ['B', 'O', 'Y', 'P']] = (RunResult.solved ['O', 'Y', 'P', 'R'] 4, [['G', 'P', 'O', 'Y'], ['O', 'Y', 'P', 'R']]))) rfl
  refine (loopRun_step ['O', 'Y', 'P', 'R'] 5 4 ['G', 'P', 'O', 'Y'] E114 [['B', 'G', 'O', 'R'], ['B', 'O', 'Y', 'P']] 3 0 E170 ['O', 'Y', 'P', 'R'] [['B', 'G', 'O', 'R'], ['B', 'O', 'Y', 'P'], ['G', 'P', 'O', 'Y']] rfl ((calc_eq_fastP ['O', 'Y', 'P', 'R'] ['G', 'P', 'O', 'Y'] (by decide) (by decide)).trans (by decide)) (by decide) pe170 rfl nx170 (by decide) (by decide) (by decide)).trans ?_
  refine Eq.trans (step_lift ['G', 'P', 'O', 'Y'] (?_ : loopRun (honest ['O', 'Y', 'P', 'R']) 4 (some ['O', 'Y', 'P', 'R']) E170 [['B', 'G', 'O', 'R'], ['B', 'O', 'Y', 'P'], ['G', 'P', 'O', 'Y']] = (RunResult.solved ['O', 'Y', 'P', 'R'] 4, [['O', 'Y', 'P', 'R']]))) rfl
  exact loopRun_last ['O', 'Y', 'P', 'R'] 4 3 E170 [['B', 'G', 'O', 'R'], ['B', 'O', 'Y', 'P'], ['G', 'P', 'O', 'Y']] rfl rfl (by decide)

lemma rs168 : loopRun (honest ['O', 'P', 'B', 'G']) 7 none S0 [] =
    (RunResult.solved ['O', 'P', 'B', 'G'] 5, [['B', 'G', 'O', 'R'], ['G', 'O', 'R', 'Y'], ['O', 'B', 'P', 'G'], ['O', 'B', 'G', 'P'], ['O', 'P', 'B', 'G']]) := by
  refine (loopRun_none' (honest ['O', 'P', 'B', 'G']) 7 S0 []).trans ?_
  refine (loopRun_step ['O', 'P', 'B', 'G'] 7 6 ['B', 'G', 'O', 'R'] S0 [] 3 0 E65 ['G', 'O', 'R', 'Y'] [['B', 'G', 'O', 'R']] rfl ((calc_eq_fastP ['O', 'P', 'B', 'G'] ['B', 'G', 'O', 'R'] (by decide) (by decide)).trans (by decide)) (by decide) pe65 rfl nx65 (by decide) (by decide) (by decide)).trans ?_
  refine Eq.trans (step_lift ['B', 'G', 'O', 'R'] (?_ : loopRun (honest ['O', 'P', 'B', 'G']) 6 (some ['G', 'O', 'R', 'Y']) E65 [['B', 'G', 'O', 'R']] = (RunResult.solved ['O', 'P', 'B', 'G'] 5, [['G', 'O', 'R', 'Y'], ['O', 'B', 'P', 'G'], ['O', 'B', 'G', 'P'], ['O', 'P', 'B', 'G']]))) rfl
  refine (loopRun_step ['O', 'P', 'B', 'G'] 6 5 ['G', 'O', 'R', 'Y'] E65 [['B', 'G', 'O', 'R']] 2 0 E123 ['O', 'B', 'P', 'G'] [['B', 'G', 'O', 'R'], ['G', 'O', 'R', 'Y']] rfl ((calc_eq_fastP ['O', 'P', 'B', 'G'] ['G', 'O', 'R', 'Y'] (by decide) (by decide)).trans (by decide)) (by decide) pe123 rfl nx123 (by decide) (by decide) (by decide)).trans ?_
  refine Eq.trans (step_lift ['G', 'O', 'R', 'Y'] (?_ : loopRun (honest ['O', 'P', 'B', 'G']) 5 (some ['O', 'B', 'P', 'G']) E123 [['B', 'G', 'O', 'R'], ['G', 'O', 'R', 'Y']] = (RunResult.solved ['O', 'P', 'B', 'G'] 5, [['O', 'B', 'P', 'G'], ['O', 'B', 'G', 'P'], ['O', 'P', 'B', 'G']]))) rfl
  refine (loopRun_step ['O', 'P', 'B', 'G'] 5 4 ['O', 'B', 'P', 'G'] E123 [['B', 'G', 'O', 'R'], ['G', 'O', 'R', 'Y']] 2 2 E124 ['O', 'B', 'G', 'P'] [['B', 'G', 'O', 'R'], ['G', 'O', 'R', 'Y'], ['O', 'B', 'P', 'G']] rfl ((calc_eq_fastP ['O', 'P', 'B', 'G'] ['O', 'B', 'P', 'G'] (by decide) (by decide)).trans (by decide)) (by decide) pe124 rfl nx124 (by decide) (by decide) (by decide)).trans ?_
  refine Eq.trans (step_lift ['O', 'B', 'P', 'G'] (?_ : loopRun (honest ['O', 'P', 'B', 'G']) 4 (some ['O', 'B', 'G', 'P']) E124 [['B', 'G', 'O', 'R'], ['G', 'O', 'R', 'Y'], ['O', 'B', 'P', 'G']] = (RunResult.solved ['O', 'P', 'B', 'G'] 5, [['O', 'B', 'G', 'P'], ['O', 'P', 'B', 'G']]))) rfl
  refine (loopRun_step ['O', 'P', 'B', 'G'] 4 3 ['O', 'B', 'G', 'P'] E124 [['B', 'G', 'O', 'R'], ['G', 'O', 'R', 'Y'], ['O', 'B', 'P', 'G']] 3 1 [['O', 'P', 'B', 'G']] ['O', 'P', 'B', 'G'] [['B', 'G', 'O', 'R'], ['G', 'O', 'R', 'Y'], ['O', 'B', 'P', 'G'], ['O', 'B', 'G', 'P']] rfl ((calc_eq_fastP ['O', 'P', 'B', 'G'] ['O', 'B', 'G', 'P'] (by decide) (by decide)).trans (by decide)) (by decide) pe171 rfl (findNextGuess_singleton ['O', 'P', 'B', 'G'] [['B', 'G', 'O', 'R'], ['G', 'O', 'R', 'Y'], ['O', 'B', 'P', 'G'], ['O', 'B', 'G', 'P']]) (by decide) (by decide) (by decide)).trans ?_
  refine Eq.trans (step_lift ['O', 'B', 'G', 'P'] (?_ : loopRun (honest ['O', 'P', 'B', 'G']) 3 (some ['O', 'P', 'B', 'G']) [['O', 'P', 'B', 'G']] [['B', 'G', 'O', 'R'], ['G', 'O', 'R', 'Y'], ['O', 'B', 'P', 'G'], ['O', 'B', 'G', 'P']] = (RunResult.solved ['O', 'P', 'B', 'G'] 5, [['O', 'P', 'B', 'G']]))) rfl
  exact loopRun_last ['O', 'P', 'B', 'G'] 3 2 [['O', 'P', 'B', 'G']] [['B', 'G', 'O', 'R'], ['G', 'O', 'R', 'Y'], ['O', 'B', 'P', 'G'], ['O', 'B', 'G', 'P']] rfl rfl (by decide)

lemma rs169 : loopRun (honest ['O', 'P', 'B', 'R']) 7 none S0 [] =
    (RunResult.solved ['O', 'P', 'B', 'R'] 5, [['B', 'G', 'O', 'R'], ['B', 'O', 'R', 'Y'], ['O', 'Y', 'G', 'R'], ['O', 'B', 'P', 'R'], ['O', 'P', 'B', 'R']]) := by
  refine (loopRun_none' (honest ['O', 'P', 'B', 'R']) 7 S0 []).trans ?_
  refine (loopRun_step ['O', 'P', 'B', 'R'] 7 6 ['B', 'G', 'O', 'R'] S0 [] 2 1 E13 ['B', 'O', 'R', 'Y'] [['B', 'G', 'O', 'R']] rfl ((calc_eq_fastP ['O', 'P', 'B', 'R'] ['B', 'G', 'O', 'R'] (by decide) (by decide)).trans (by decide)) (by decide) pe13 rfl nx13 (by decide) (by decide) (by decide)).trans ?_
  refine Eq.trans (step_lift ['B', 'G', 'O', 'R'] (?_ : loopRun (honest ['O', 'P', 'B', 'R']) 6 (some ['B', 'O', 'R', 'Y']) E13 [['B', 'G', 'O', 'R']] = (RunResult.solved ['O', 'P', 'B', 'R'] 5, [['B', 'O', 'R', 'Y'], ['O', 'Y', 'G', 'R'], ['O', 'B', 'P', 'R'], ['O', 'P', 'B', 'R']]))) rfl
  refine (loopRun_step ['O', 'P', 'B', 'R'] 6 5 ['B', 'O', 'R', 'Y'] E13 [['B', 'G', 'O', 'R']] 3 0 E69 ['O', 'Y', 'G', 'R'] [['B', 'G', 'O', 'R'], ['B', 'O', 'R', 'Y']] rfl ((calc_eq_fastP ['O', 'P', 'B', 'R'] ['B', 'O', 'R', 'Y'] (by decide) (by decide)).trans (by decide)) (by decide) pe69 rfl nx69 (by decide) (by decide) (by decide)).trans ?_
  refine Eq.trans (step_lift ['B', 'O', 'R', 'Y'] (?_ : loopRun (honest ['O', 'P', 'B', 'R']) 5 (some ['O', 'Y', 'G', 'R']) E69 [['B', 'G', 'O', 'R'], ['B', 'O', 'R', 'Y']] = (RunResult.solved ['O', 'P', 'B', 'R'] 5, [['O', 'Y', 'G', 'R'], ['O', 'B', 'P', 'R'], ['O', 'P', 'B', 'R']]))) rfl
  refine (loopRun_step ['O', 'P', 'B', 'R'] 5 4 ['O', 'Y', 'G', 'R'] E69 [['B', 'G', 'O', 'R'], ['B', 'O', 'R', 'Y']] 0 2 E132 ['O', 'B', 'P', 'R'] [['B', 'G', 'O', 'R'], ['B', 'O', 'R', 'Y'], ['O', 'Y', 'G', 'R']] rfl ((calc_eq_fastP ['O', 'P', 'B', 'R'] ['O', 'Y', 'G', 'R'] (by decide) (by decide)).trans (by decide)) (by decide) pe132 rfl nx132 (by decide) (by decide) (by decide)).trans ?_
  refine Eq.trans (step_lift ['O', 'Y', 'G', 'R'] (?_ : loopRun (honest ['O', 'P', 'B', 'R']) 4 (some ['O', 'B', 'P', 'R']) E132 [['B', 'G', 'O', 'R'], ['B', 'O', 'R', 'Y'], ['O', 'Y', 'G', 'R']] = (RunResult.solved ['O', 'P', 'B', 'R'] 5, [['O', 'B', 'P', 'R'], ['O', 'P', 'B', 'R']]))) rfl
  refine (loopRun_step ['O', 'P', 'B', 'R'] 4 3 ['O', 'B', 'P', 'R'] E132 [['B', 'G', 'O', 'R'], ['B', 'O', 'R', 'Y'], ['O', 'Y', 'G', 'R']] 2 2 [['O', 'P', 'B', 'R']] ['O', 'P', 'B', 'R'] [['B', 'G', 'O', 'R'], ['B', 'O', 'R', 'Y'], ['O', 'Y', 'G', 'R'], ['O', 'B', 'P', 'R']] rfl ((calc_eq_fastP ['O', 'P', 'B', 'R'] ['O', 'B', 'P', 'R'] (by decide) (by decide)).trans (by decide)) (by decide) pe172 rfl (findNextGuess_singleton ['O', 'P', 'B', 'R'] [['B', 'G', 'O', 'R'], ['B', 'O', 'R', 'Y'], ['O', 'Y', 'G', 'R'], ['O', 'B', 'P', 'R']]) (by decide) (by decide) (by decide)).trans ?_
  refine Eq.trans (step_lift ['O', 'B', 'P', 'R'] (?_ : loopRun (honest ['O', 'P', 'B', 'R']) 3 (some ['O', 'P', 'B', 'R']) [['O', 'P', 'B', 'R']] [['B', 'G', 'O', 'R'], ['B', 'O', 'R', 'Y'], ['O', 'Y', 'G', 'R'], ['O', 'B', 'P', 'R']] = (RunResult.solved ['O', 'P', 'B', 'R'] 5, [['O', 'P', 'B', 'R']]))) rfl
  exact loopRun_last ['O', 'P', 'B', 'R'] 3 2 [['O', 'P', 'B', 'R']] [['B', 'G', 'O', 'R'], ['B', 'O', 'R', 'Y'], ['O', 'Y', 'G', 'R'], ['O', 'B', 'P', 'R']] rfl rfl (by decide)

lemma rs170 : loopRun (honest ['O', 'P', 'B', 'Y']) 7 none S0 [] =
    (RunResult.solved ['O', 'P', 'B', 'Y'] 4, [['B', 'G', 'O', 'R'], ['G', 'Y', 'R', 'P'], ['O', 'B', 'P', 'Y'], ['O', 'P', 'B', 'Y']]) := by
  refine (loopRun_none' (honest ['O', 'P', 'B', 'Y']) 7 S0 []).trans ?_
  refine (loopRun_step ['O', 'P', 'B', 'Y'] 7 6 ['B', 'G', 'O', 'R'] S0 [] 2 0 E72 ['G', 'Y', 'R', 'P'] [['B', 'G', 'O', 'R']] rfl ((calc_eq_fastP ['O', 'P', 'B', 'Y'] ['B', 'G', 'O', 'R'] (by decide) (by decide)).trans (by decide)) (by decide) pe72 rfl nx72 (by decide) (by decide) (by decide)).trans ?_
  refine Eq.trans (step_lift ['B', 'G', 'O', 'R'] (?_ : loopRun (honest ['O', 'P', 'B', 'Y']) 6 (some ['G', 'Y', 'R', 'P']) E72 [['B', 'G', 'O', 'R']] = (RunResult.solved ['O', 'P', 'B', 'Y'] 4, [['G', 'Y', 'R', 'P'], ['O', 'B', 'P', 'Y'], ['O', 'P', 'B', 'Y']]))) rfl
  refine (loopRun_step ['O', 'P', 'B', 'Y'] 6 5 ['G', 'Y', 'R', 'P'] E72 [['B', 'G', 'O', 'R']] 2 0 E133 ['O', 'B', 'P', 'Y'] [['B', 'G', 'O', 'R'], ['G', 'Y', 'R', 'P']] rfl ((calc_eq_fastP ['O', 'P', 'B', 'Y'] ['G', 'Y', 'R', 'P'] (by decide) (by decide)).trans (by decide)) (by decide) pe133 rfl nx133 (by decide) (by decide) (by decide)).trans ?_
  refine Eq.trans (step_lift ['G', 'Y', 'R', 'P'] (?_ : loopRun (honest ['O', 'P', 'B', 'Y']) 5 (some ['O', 'B', 'P', 'Y']) E133 [['B', 'G', 'O', 'R'], ['G', 'Y', 'R', 'P']] = (RunResult.solved ['O', 'P', 'B', 'Y'] 4, [['O', 'B', 'P', 'Y'], ['O', 'P', 'B', 'Y']]))) rfl
  refine (loopRun_step ['O', 'P', 'B', 'Y'] 5 4 ['O', 'B', 'P', 'Y'] E133 [['B', 'G', 'O', 'R'], ['G', 'Y', 'R', 'P']] 2 2 E173 ['O', 'P', 'B', 'Y'] [['B', 'G', 'O', 'R'], ['G', 'Y', 'R', 'P'], ['O', 'B', 'P', 'Y']] rfl ((calc_eq_fastP ['O', 'P', 'B', 'Y'] ['O', 'B', 'P', 'Y'] (by decide) (by decide)).trans (by decide)) (by decide) pe173 rfl nx173 (by decide) (by decide) (by decide)).trans ?_
  refine Eq.trans (step_lift ['O', 'B', 'P', 'Y'] (?_ : loopRun (honest ['O', 'P', 'B', 'Y']) 4 (some ['O', 'P', 'B', 'Y']) E173 [['B', 'G', 'O', 'R'], ['G', 'Y', 'R', 'P'], ['O', 'B', 'P', 'Y']] = (RunResult.solved ['O', 'P', 'B', 'Y'] 4, [['O', 'P', 'B', 'Y']]))) rfl
  exact loopRun_last ['O', 'P', 'B', 'Y'] 4 3 E173 [['B', 'G', 'O', 'R'], ['G', 'Y', 'R', 'P'], ['O', 'B', 'P', 'Y']] rfl rfl (by decide)

lemma rs171 : loopRun (honest ['O', 'P', 'G', 'B']) 7 none S0 [] =
    (RunResult.solved ['O', 'P', 'G', 'B'] 4, [['B', 'G', 'O', 'R'], ['G', 'O', 'R', 'Y'], ['O', 'B', 'P', 'G'], ['O', 'P', 'G', 'B']]) := by
  refine (loopRun_none' (honest ['O', 'P', 'G', 'B']) 7 S0 []).trans ?_
  refine (loopRun_step ['O', 'P', 'G', 'B'] 7 6 ['B', 'G', 'O', 'R'] S0 [] 3 0 E65 ['G', 'O', 'R', 'Y'] [['B', 'G', 'O', 'R']] rfl ((calc_eq_fastP ['O', 'P', 'G', 'B'] ['B', 'G', 'O', 'R'] (by decide) (by decide)).trans (by decide)) (by decide) pe65 rfl nx65 (by decide) (by decide) (by decide)).trans ?_
  refine Eq.trans (step_lift ['B', 'G', 'O', 'R'] (?_ : loopRun (honest ['O', 'P', 'G', 'B']) 6 (some ['G', 'O', 'R', 'Y']) E65 [['B', 'G', 'O', 'R']] = (RunResult.solved ['O', 'P', 'G', 'B'] 4, [['G', 'O', 'R', 'Y'], ['O', 'B', 'P', 'G'], ['O', 'P', 'G', 'B']]))) rfl
  refine (loopRun_step ['O', 'P', 'G', 'B'] 6 5 ['G', 'O', 'R', 'Y'] E65 [['B', 'G', 'O', 'R']] 2 0 E123 ['O', 'B', 'P', 'G'] [['B', 'G', 'O', 'R'], ['G', 'O', 'R', 'Y']] rfl ((calc_eq_fastP ['O', 'P', 'G', 'B'] ['G', 'O', 'R', 'Y'] (by decide) (by decide)).trans (by decide)) (by decide) pe123 rfl nx123 (by decide) (by decide) (by decide)).trans ?_
  refine Eq.trans (step_lift ['G', 'O', 'R', 'Y'] (?_ : loopRun (honest ['O', 'P', 'G', 'B']) 5 (some ['O', 'B', 'P', 'G']) E123 [['B', 'G', 'O', 'R'], ['G', 'O', 'R', 'Y']] = (RunResult.solved ['O', 'P', 'G', 'B'] 4, [['O', 'B', 'P', 'G'], ['O', 'P', 'G', 'B']]))) rfl
  refine (loopRun_step ['O', 'P', 'G', 'B'] 5 4 ['O', 'B', 'P', 'G'] E123 [['B', 'G', 'O', 'R'], ['G', 'O', 'R', 'Y']] 3 1 E174 ['O', 'P', 'G', 'B'] [['B', 'G', 'O', 'R'], ['G', 'O', 'R', 'Y'], ['O', 'B', 'P', 'G']] rfl ((calc_eq_fastP ['O', 'P', 'G', 'B'] ['O', 'B', 'P', 'G'] (by decide) (by decide)).trans (by decide)) (by decide) pe174 rfl nx174 (by decide) (by decide) (by decide)).trans ?_
  refine Eq.trans (step_lift ['O', 'B', 'P', 'G'] (?_ : loopRun (honest ['O', 'P', 'G', 'B']) 4 (some ['O', 'P', 'G', 'B']) E174 [['B', 'G', 'O', 'R'], ['G', 'O', 'R', 'Y'], ['O', 'B', 'P', 'G']] = (RunResult.solved ['O', 'P', 'G', 'B'] 4, [['O', 'P', 'G', 'B']]))) rfl
  exact loopRun_last ['O', 'P', 'G', 'B'] 4 3 E174 [['B', 'G', 'O', 'R'], ['G', 'O', 'R', 'Y'], ['O', 'B', 'P', 'G']] rfl rfl (by decide)

lemma rs172 : loopRun (honest ['O', 'P', 'G', 'R']) 7 none S0 [] =
    (RunResult.solved ['O', 'P', 'G', 'R'] 5, [['B', 'G', 'O', 'R'], ['B', 'O', 'R', 'Y'], ['G', 'P', 'O', 'B'], ['G', 'B', 'P', 'R'], ['O', 'P', 'G', 'R']]) := by
  refine (loopRun_none' (honest ['O', 'P', 'G', 'R']) 7 S0 []).trans ?_
  refine (loopRun_step ['O', 'P', 'G', 'R'] 7 6 ['B', 'G', 'O', 'R'] S0 [] 2 1 E13 ['B', 'O', 'R', 'Y'] [['B', 'G', 'O', 'R']] rfl ((calc_eq_fastP ['O', 'P', 'G', 'R'] ['B', 'G', 'O', 'R'] (by decide) (by decide)).trans (by decide)) (by decide) pe13 rfl nx13 (by decide) (by decide) (by decide)).trans ?_
  refine Eq.trans (step_lift ['B', 'G', 'O', 'R'] (?_ : loopRun (honest ['O', 'P', 'G', 'R']) 6 (some ['B', 'O', 'R', 'Y']) E13 [['B', 'G', 'O', 'R']] = (RunResult.solved ['O', 'P', 'G', 'R'] 5, [['B', 'O', 'R', 'Y'], ['G', 'P', 'O', 'B'], ['G', 'B', 'P', 'R'], ['O', 'P', 'G', 'R']]))) rfl
  refine (loopRun_step ['O', 'P', 'G', 'R'] 6 5 ['B', 'O', 'R', 'Y'] E13 [['B', 'G', 'O', 'R']] 2 0 E62 ['G', 'P', 'O', 'B'] [['B', 'G', 'O', 'R'], ['B', 'O', 'R', 'Y']] rfl ((calc_eq_fastP ['O', 'P', 'G', 'R'] ['B', 'O', 'R', 'Y'] (by decide) (by decide)).trans (by decide)) (by decide) pe62 rfl nx62 (by decide) (by decide) (by decide)).trans ?_
  refine Eq.trans (step_lift ['B', 'O', 'R', 'Y'] (?_ : loopRun (honest ['O', 'P', 'G', 'R']) 5 (some ['G', 'P', 'O', 'B']) E62 [['B', 'G', 'O', 'R'], ['B', 'O', 'R', 'Y']] = (RunResult.solved ['O', 'P', 'G', 'R'] 5, [['G', 'P', 'O', 'B'], ['G', 'B', 'P', 'R'], ['O', 'P', 'G', 'R']]))) rfl
  refine (loopRun_step ['O', 'P', 'G', 'R'] 5 4 ['G', 'P', 'O', 'B'] E62 [['B', 'G', 'O', 'R'], ['B', 'O', 'R', 'Y']] 2 1 E77 ['G', 'B', 'P', 'R'] [['B', 'G', 'O', 'R'], ['B', 'O', 'R', 'Y'], ['G', 'P', 'O', 'B']] rfl ((calc_eq_fastP ['O', 'P', 'G', 'R'] ['G', 'P', 'O', 'B'] (by decide) (by decide)).trans (by decide)) (by decide) pe77 rfl nx77 (by decide) (by decide) (by decide)).trans ?_
  refine Eq.trans (step_lift ['G', 'P', 'O', 'B'] (?_ : loopRun (honest ['O', 'P', 'G', 'R']) 4 (some ['G', 'B', 'P', 'R']) E77 [['B', 'G', 'O', 'R'], ['B', 'O', 'R', 'Y'], ['G', 'P', 'O', 'B']] = (RunResult.solved ['O', 'P', 'G', 'R'] 5, [['G', 'B', 'P', 'R'], ['O', 'P', 'G', 'R']]))) rfl
  refine (loopRun_step ['O', 'P', 'G', 'R'] 4 3 ['G', 'B', 'P', 'R'] E77 [['B', 'G', 'O', 'R'], ['B', 'O', 'R', 'Y'], ['G', 'P', 'O', 'B']] 2 1 [['O', 'P', 'G', 'R']] ['O', 'P', 'G', 'R'] [['B', 'G', 'O', 'R'], ['B', 'O', 'R', 'Y'], ['G', 'P', 'O', 'B'], ['G', 'B', 'P', 'R']] rfl ((calc_eq_fastP ['O', 'P', 'G', 'R'] ['G', 'B', 'P', 'R'] (by decide) (by decide)).trans (by decide)) (by decide) pe175 rfl (findNextGuess_singleton ['O', 'P', 'G', 'R'] [['B', 'G', 'O', 'R'], ['B', 'O', 'R', 'Y'], ['G', 'P', 'O', 'B'], ['G', 'B', 'P', 'R']]) (by decide) (by decide) (by decide)).trans ?_
  refine Eq.trans (step_lift ['G', 'B', 'P', 'R'] (?_ : loopRun (honest ['O', 'P', 'G', 'R']) 3 (some ['O', 'P', 'G', 'R']) [['O', 'P', 'G', 'R']] [['B', 'G', 'O', 'R'], ['B', 'O', 'R', 'Y'], ['G', 'P', 'O', 'B'], ['G', 'B', 'P', 'R']] = (RunResult.solved ['O', 'P', 'G', 'R'] 5, [['O', 'P', 'G', 'R']]))) rfl
  exact loopRun_last ['O', 'P', 'G', 'R'] 3 2 [['O', 'P', 'G', 'R']] [['B', 'G', 'O', 'R'], ['B', 'O', 'R', 'Y'], ['G', 'P', 'O', 'B'], ['G', 'B', 'P', 'R']] rfl rfl (by decide)

lemma rs173 : loopRun (honest ['O', 'P', 'G', 'Y']) 7 none S0 [] =
    (RunResult.solved ['O', 'P', 'G', 'Y'] 4, [['B', 'G', 'O', 'R'], ['G', 'Y', 'R', 'P'], ['R', 'B', 'P', 'Y'], ['O', 'P', 'G', 'Y']]) := by
  refine (loopRun_none' (honest ['O', 'P', 'G', 'Y']) 7 S0 []).trans ?_
  refine (loopRun_step ['O', 'P', 'G', 'Y'] 7 6 ['B', 'G', 'O', 'R'] S0 [] 2 0 E72 ['G', 'Y', 'R', 'P'] [['B', 'G', 'O', 'R']] rfl ((calc_eq_fastP ['O', 'P', 'G', 'Y'] ['B', 'G', 'O', 'R'] (by decide) (by decide)).trans (by decide)) (by decide) pe72 rfl nx72 (by decide) (by decide) (by decide)).trans ?_
  refine Eq.trans (step_lift ['B', 'G', 'O', 'R'] (?_ : loopRun (honest ['O', 'P', 'G', 'Y']) 6 (some ['G', 'Y', 'R', 'P']) E72 [['B', 'G', 'O', 'R']] = (RunResult.solved ['O', 'P', 'G', 'Y'] 4, [['G', 'Y', 'R', 'P'], ['R', 'B', 'P', 'Y'], ['O', 'P', 'G', 'Y']]))) rfl
  refine (loopRun_step ['O', 'P', 'G', 'Y'] 6 5 ['G', 'Y', 'R', 'P'] E72 [['B', 'G', 'O', 'R']] 3 0 E158 ['R', 'B', 'P', 'Y'] [['B', 'G', 'O', 'R'], ['G', 'Y', 'R', 'P']] rfl ((calc_eq_fastP ['O', 'P', 'G', 'Y'] ['G', 'Y', 'R', 'P'] (by decide) (by decide)).trans (by decide)) (by decide) pe158 rfl nx158 (by decide) (by decide) (by decide)).trans ?_
  refine Eq.trans (step_lift ['G', 'Y', 'R', 'P'] (?_ : loopRun (honest ['O', 'P', 'G', 'Y']) 5 (some ['R', 'B', 'P', 'Y']) E158 [['B', 'G', 'O', 'R'], ['G', 'Y', 'R', 'P']] = (RunResult.solved ['O', 'P', 'G', 'Y'] 4, [['R', 'B', 'P', 'Y'], ['O', 'P', 'G', 'Y']]))) rfl
  refine (loopRun_step ['O', 'P', 'G', 'Y'] 5 4 ['R', 'B', 'P', 'Y'] E158 [['B', 'G', 'O', 'R'], ['G', 'Y', 'R', 'P']] 1 1 E176 ['O', 'P', 'G', 'Y'] [['B', 'G', 'O', 'R'], ['G', 'Y', 'R', 'P'], ['R', 'B', 'P', 'Y']] rfl ((calc_eq_fastP ['O', 'P', 'G', 'Y'] ['R', 'B', 'P', 'Y'] (by decide) (by decide)).trans (by decide)) (by decide) pe176 rfl nx176 (by decide) (by decide) (by decide)).trans ?_
  refine Eq.trans (step_lift ['R', 'B', 'P', 'Y'] (?_ : loopRun (honest ['O', 'P', 'G', 'Y']) 4 (some ['O', 'P', 'G', 'Y']) E176 [['B', 'G', 'O', 'R'], ['G', 'Y', 'R', 'P'], ['R', 'B', 'P', 'Y']] = (RunResult.solved ['O', 'P', 'G', 'Y'] 4, [['O', 'P', 'G', 'Y']]))) rfl
  exact loopRun_last ['O', 'P', 'G', 'Y'] 4 3 E176 [['B', 'G', 'O', 'R'], ['G', 'Y', 'R', 'P'], ['R', 'B', 'P', 'Y']] rfl rfl (by decide)

lemma rs174 : loopRun (honest ['O', 'P', 'R', 'B']) 7 none S0 [] =
    (RunResult.solved ['O', 'P', 'R', 'B'] 4, [['B', 'G', 'O', 'R'], ['G', 'O', 'R', 'Y'], ['R', 'O', 'B', 'P'], ['O', 'P', 'R', 'B']]) := by
  refine (loopRun_none' (honest ['O', 'P', 'R', 'B']) 7 S0 []).trans ?_
  refine (loopRun_step ['O', 'P', 'R', 'B'] 7 6 ['B', 'G', 'O', 'R'] S0 [] 3 0 E65 ['G', 'O', 'R', 'Y'] [['B', 'G', 'O', 'R']] rfl ((calc_eq_fastP ['O', 'P', 'R', 'B'] ['B', 'G', 'O', 'R'] (by decide) (by decide)).trans (by decide)) (by decide) pe65 rfl nx65 (by decide) (by decide) (by decide)).trans ?_
  refine Eq.trans (step_lift ['B', 'G', 'O', 'R'] (?_ : loopRun (honest ['O', 'P', 'R', 'B']) 6 (some ['G', 'O', 'R', 'Y']) E65 [['B', 'G', 'O', 'R']] = (RunResult.solved ['O', 'P', 'R', 'B'] 4, [['G', 'O', 'R', 'Y'], ['R', 'O', 'B', 'P'], ['O', 'P', 'R', 'B']]))) rfl
  refine (loopRun_step ['O', 'P', 'R', 'B'] 6 5 ['G', 'O', 'R', 'Y'] E65 [['B', 'G', 'O', 'R']] 1 1 E75 ['R', 'O', 'B', 'P'] [['B', 'G', 'O', 'R'], ['G', 'O', 'R', 'Y']] rfl ((calc_eq_fastP ['O', 'P', 'R', 'B'] ['G', 'O', 'R', 'Y'] (by decide) (by decide)).trans (by decide)) (by decide) pe75 rfl nx75 (by decide) (by decide) (by decide)).trans ?_
  refine Eq.trans (step_lift ['G', 'O', 'R', 'Y'] (?_ : loopRun (honest ['O', 'P', 'R', 'B']) 5 (some ['R', 'O', 'B', 'P']) E75 [['B', 'G', 'O', 'R'], ['G', 'O', 'R', 'Y']] = (RunResult.solved ['O', 'P', 'R', 'B'] 4, [['R', 'O', 'B', 'P'], ['O', 'P', 'R', 'B']]))) rfl
  refine (loopRun_step ['O', 'P', 'R', 'B'] 5 4 ['R', 'O', 'B', 'P'] E75 [['B', 'G', 'O', 'R'], ['G', 'O', 'R', 'Y']] 4 0 E177 ['O', 'P', 'R', 'B'] [['B', 'G', 'O', 'R'], ['G', 'O', 'R', 'Y'], ['R', 'O', 'B', 'P']] rfl ((calc_eq_fastP ['O', 'P', 'R', 'B'] ['R', 'O', 'B', 'P'] (by decide) (by decide)).trans (by decide)) (by decide) pe177 rfl nx177 (by decide) (by decide) (by decide)).trans ?_
  refine Eq.trans (step_lift ['R', 'O', 'B', 'P'] (?_ : loopRun (honest ['O', 'P', 'R', 'B']) 4 (some ['O', 'P', 'R', 'B']) E177 [['B', 'G', 'O', 'R'], ['G', 'O', 'R', 'Y'], ['R', 'O', 'B', 'P']] = (RunResult.solved ['O', 'P', 'R', 'B'] 4, [['O', 'P', 'R', 'B']]))) rfl
  exact loopRun_last ['O', 'P', 'R', 'B'] 4 3 E177 [['B', 'G', 'O', 'R'], ['G', 'O', 'R', 'Y'], ['R', 'O', 'B', 'P']] rfl rfl (by decide)

lemma rs175 : loopRun (honest ['O', 'P', 'R', 'G']) 7 none S0 [] =
    (RunResult.solved ['O', 'P', 'R', 'G'] 4, [['B', 'G', 'O', 'R'], ['G', 'O', 'R', 'Y'], ['G', 'B', 'Y', 'O'], ['O', 'P', 'R', 'G']]) := by
  refine (loopRun_none' (honest ['O', 'P', 'R', 'G']) 7 S0 []).trans ?_
  refine (loopRun_step ['O', 'P', 'R', 'G'] 7 6 ['B', 'G', 'O', 'R'] S0 [] 3 0 E65 ['G', 'O', 'R', 'Y'] [['B', 'G', 'O', 'R']] rfl ((calc_eq_fastP ['O', 'P', 'R', 'G'] ['B', 'G', 'O', 'R'] (by decide) (by decide)).trans (by decide)) (by decide) pe65 rfl nx65 (by decide) (by decide) (by decide)).trans ?_
  refine Eq.trans (step_lift ['B', 'G', 'O', 'R'] (?_ : loopRun (honest ['O', 'P', 'R', 'G']) 6 (some ['G', 'O', 'R', 'Y']) E65 [['B', 'G', 'O', 'R']] = (RunResult.solved ['O', 'P', 'R', 'G'] 4, [['G', 'O', 'R', 'Y'], ['G', 'B', 'Y', 'O'], ['O', 'P', 'R', 'G']]))) rfl
  refine (loopRun_step ['O', 'P', 'R', 'G'] 6 5 ['G', 'O', 'R', 'Y'] E65 [['B', 'G', 'O', 'R']] 2 1 E68 ['G', 'B', 'Y', 'O'] [['B', 'G', 'O', 'R'], ['G', 'O', 'R', 'Y']] rfl ((calc_eq_fastP ['O', 'P', 'R', 'G'] ['G', 'O', 'R', 'Y'] (by decide) (by decide)).trans (by decide)) (by decide) pe68 rfl nx68 (by decide) (by decide) (by decide)).trans ?_
  refine Eq.trans (step_lift ['G', 'O', 'R', 'Y'] (?_ : loopRun (honest ['O', 'P', 'R', 'G']) 5 (some ['G', 'B', 'Y', 'O']) E68 [['B', 'G', 'O', 'R'], ['G', 'O', 'R', 'Y']] = (RunResult.solved ['O', 'P', 'R', 'G'] 4, [['G', 'B', 'Y', 'O'], ['O', 'P', 'R', 'G']]))) rfl
  refine (loopRun_step ['O', 'P', 'R', 'G'] 5 4 ['G', 'B', 'Y', 'O'] E68 [['B', 'G', 'O', 'R'], ['G', 'O', 'R', 'Y']] 2 0 E178 ['O', 'P', 'R', 'G'] [['B', 'G', 'O', 'R'], ['G', 'O', 'R', 'Y'], ['G', 'B', 'Y', 'O']] rfl ((calc_eq_fastP ['O', 'P', 'R', 'G'] ['G', 'B', 'Y', 'O'] (by decide) (by decide)).trans (by decide)) (by decide) pe178 rfl nx178 (by decide) (by decide) (by decide)).trans ?_
  refine Eq.trans (step_lift ['G', 'B', 'Y', 'O'] (?_ : loopRun (honest ['O', 'P', 'R', 'G']) 4 (some ['O', 'P', 'R', 'G']) E178 [['B', 'G', 'O', 'R'], ['G', 'O', 'R', 'Y'], ['G', 'B', 'Y', 'O']] = (RunResult.solved ['O', 'P', 'R', 'G'] 4, [['O', 'P', 'R', 'G']]))) rfl
  exact loopRun_last ['O', 'P', 'R', 'G'] 4 3 E178 [['B', 'G', 'O', 'R'], ['G', 'O', 'R', 'Y'], ['G', 'B', 'Y', 'O']] rfl rfl (by decide)

lemma rs176 : loopRun (honest ['O', 'P', 'R', 'Y']) 7 none S0 [] =
    (RunResult.solved ['O', 'P', 'R', 'Y'] 4, [['B', 'G', 'O', 'R'], ['G', 'Y', 'R', 'P'], ['G', 'B', 'P', 'Y'], ['O', 'P', 'R', 'Y']]) := by
  refine (loopRun_none' (honest ['O', 'P', 'R', 'Y']) 7 S0 []).trans ?_
  refine (loopRun_step ['O', 'P', 'R', 'Y'] 7 6 ['B', 'G', 'O', 'R'] S0 [] 2 0 E72 ['G', 'Y', 'R', 'P'] [['B', 'G', 'O', 'R']] rfl ((calc_eq_fastP ['O', 'P', 'R', 'Y'] ['B', 'G', 'O', 'R'] (by decide) (by decide)).trans (by decide)) (by decide) pe72 rfl nx72 (by decide) (by decide) (by decide)).trans ?_
  refine Eq.trans (step_lift ['B', 'G', 'O', 'R'] (?_ : loopRun (honest ['O', 'P', 'R', 'Y']) 6 (some ['G', 'Y', 'R', 'P']) E72 [['B', 'G', 'O', 'R']] = (RunResult.solved ['O', 'P', 'R', 'Y'] 4, [['G', 'Y', 'R', 'P'], ['G', 'B', 'P', 'Y'], ['O', 'P', 'R', 'Y']]))) rfl
  refine (loopRun_step ['O', 'P', 'R', 'Y'] 6 5 ['G', 'Y', 'R', 'P'] E72 [['B', 'G', 'O', 'R']] 2 1 E78 ['G', 'B', 'P', 'Y'] [['B', 'G', 'O', 'R'], ['G', 'Y', 'R', 'P']] rfl ((calc_eq_fastP ['O', 'P', 'R', 'Y'] ['G', 'Y', 'R', 'P'] (by decide) (by decide)).trans (by decide)) (by decide) pe78 rfl nx78 (by decide) (by decide) (by decide)).trans ?_
  refine Eq.trans (step_lift ['G', 'Y', 'R', 'P'] (?_ : loopRun (honest ['O', 'P', 'R', 'Y']) 5 (some ['G', 'B', 'P', 'Y']) E78 [['B', 'G', 'O', 'R'], ['G', 'Y', 'R', 'P']] = (RunResult.solved ['O', 'P', 'R', 'Y'] 4, [['G', 'B', 'P', 'Y'], ['O', 'P', 'R', 'Y']]))) rfl
  refine (loopRun_step ['O', 'P', 'R', 'Y'] 5 4 ['G', 'B', 'P', 'Y'] E78 [['B', 'G', 'O', 'R'], ['G', 'Y', 'R', 'P']] 1 1 E179 ['O', 'P', 'R', 'Y'] [['B', 'G', 'O', 'R'], ['G', 'Y', 'R', 'P'], ['G', 'B', 'P', 'Y']] rfl ((calc_eq_fastP ['O', 'P', 'R', 'Y'] ['G', 'B', 'P', 'Y'] (by decide) (by decide)).trans (by decide)) (by decide) pe179 rfl nx179 (by decide) (by decide) (by decide)).trans ?_
  refine Eq.trans (step_lift ['G', 'B', 'P', 'Y'] (?_ : loopRun (honest ['O', 'P', 'R', 'Y']) 4 (some ['O', 'P', 'R', 'Y']) E179 [['B', 'G', 'O', 'R'], ['G', 'Y', 'R', 'P'], ['G', 'B', 'P', 'Y']] = (RunResult.solved ['O', 'P', 'R', 'Y'] 4, [['O', 'P', 'R', 'Y']]))) rfl
  exact loopRun_last ['O', 'P', 'R', 'Y'] 4 3 E179 [['B', 'G', 'O', 'R'], ['G', 'Y', 'R', 'P'], ['G', 'B', 'P', 'Y']] rfl rfl (by decide)

lemma rs177 : loopRun (honest ['O', 'P', 'Y', 'B']) 7 none S0 [] =
    (RunResult.solved ['O', 'P', 'Y', 'B'] 4, [['B', 'G', 'O', 'R'], ['G', 'Y', 'R', 'P'], ['O', 'B', 'P', 'Y'], ['O', 'P', 'Y', 'B']]) := by
  refine (loopRun_none' (honest ['O', 'P', 'Y', 'B']) 7 S0 []).trans ?_
  refine (loopRun_step ['O', 'P', 'Y', 'B'] 7 6 ['B', 'G', 'O', 'R'] S0 [] 2 0 E72 ['G', 'Y', 'R', 'P'] [['B', 'G', 'O', 'R']] rfl ((calc_eq_fastP ['O', 'P', 'Y', 'B'] ['B', 'G', 'O', 'R'] (by decide) (by decide)).trans (by decide)) (by decide) pe72 rfl nx72 (by decide) (by decide) (by decide)).trans ?_
  refine Eq.trans (step_lift ['B', 'G', 'O', 'R'] (?_ : loopRun (honest ['O', 'P', 'Y', 'B']) 6 (some ['G', 'Y', 'R', 'P']) E72 [['B', 'G', 'O', 'R']] = (RunResult.solved ['O', 'P', 'Y', 'B'] 4, [['G', 'Y', 'R', 'P'], ['O', 'B', 'P', 'Y'], ['O', 'P', 'Y', 'B']]))) rfl
  refine (loopRun_step ['O', 'P', 'Y', 'B'] 6 5 ['G', 'Y', 'R', 'P'] E72 [['B', 'G', 'O', 'R']] 2 0 E133 ['O', 'B', 'P', 'Y'] [['B', 'G', 'O', 'R'], ['G', 'Y', 'R', 'P']] rfl ((calc_eq_fastP ['O', 'P', 'Y', 'B'] ['G', 'Y', 'R', 'P'] (by decide) (by decide)).trans (by decide)) (by decide) pe133 rfl nx133 (by decide) (by decide) (by decide)).trans ?_
  refine Eq.trans (step_lift ['G', 'Y', 'R', 'P'] (?_ : loopRun (honest ['O', 'P', 'Y', 'B']) 5 (some ['O', 'B', 'P', 'Y']) E133 [['B', 'G', 'O', 'R'], ['G', 'Y', 'R', 'P']] = (RunResult.solved ['O', 'P', 'Y', 'B'] 4, [['O', 'B', 'P', 'Y'], ['O', 'P', 'Y', 'B']]))) rfl
  refine (loopRun_step ['O', 'P', 'Y', 'B'] 5 4 ['O', 'B', 'P', 'Y'] E133 [['B', 'G', 'O', 'R'], ['G', 'Y', 'R', 'P']] 3 1 E180 ['O', 'P', 'Y', 'B'] [['B', 'G', 'O', 'R'], ['G', 'Y', 'R', 'P'], ['O', 'B', 'P', 'Y']] rfl ((calc_eq_fastP ['O', 'P', 'Y', 'B'] ['O', 'B', 'P', 'Y'] (by decide) (by decide)).trans (by decide)) (by decide) pe180 rfl nx180 (by decide) (by decide) (by decide)).trans ?_
  refine Eq.trans (step_lift ['O', 'B', 'P', 'Y'] (?_ : loopRun (honest ['O', 'P', 'Y', 'B']) 4 (some ['O', 'P', 'Y', 'B']) E180 [['B', 'G', 'O', 'R'], ['G', 'Y', 'R', 'P'], ['O', 'B', 'P', 'Y']] = (RunResult.solved ['O', 'P', 'Y', 'B'] 4, [['O', 'P', 'Y', 'B']]))) rfl
  exact loopRun_last ['O', 'P', 'Y', 'B'] 4 3 E180 [['B', 'G', 'O', 'R'], ['G', 'Y', 'R', 'P'], ['O', 'B', 'P', 'Y']] rfl rfl (by decide)

lemma rs178 : loopRun (honest ['O', 'P', 'Y', 'G']) 7 none S0 [] =
    (RunResult.solved ['O', 'P', 'Y', 'G'] 4, [['B', 'G', 'O', 'R'], ['G', 'Y', 'R', 'P'], ['R', 'B', 'P', 'Y'], ['O', 'P', 'Y', 'G']]) := by
  refine (loopRun_none' (honest ['O', 'P', 'Y', 'G']) 7 S0 []).trans ?_
  refine (loopRun_step ['O', 'P', 'Y', 'G'] 7 6 ['B', 'G', 'O', 'R'] S0 [] 2 0 E72 ['G', 'Y', 'R', 'P'] [['B', 'G', 'O', 'R']] rfl ((calc_eq_fastP ['O', 'P', 'Y', 'G'] ['B', 'G', 'O', 'R'] (by decide) (by decide)).trans (by decide)) (by decide) pe72 rfl nx72 (by decide) (by decide) (by decide)).trans ?_
  refine Eq.trans (step_lift ['B', 'G', 'O', 'R'] (?_ : loopRun (honest ['O', 'P', 'Y', 'G']) 6 (some ['G', 'Y', 'R', 'P']) E72 [['B', 'G', 'O', 'R']] = (RunResult.solved ['O', 'P', 'Y', 'G'] 4, [['G', 'Y', 'R', 'P'], ['R', 'B', 'P', 'Y'], ['O', 'P', 'Y', 'G']]))) rfl
  refine (loopRun_step ['O', 'P', 'Y', 'G'] 6 5 ['G', 'Y', 'R', 'P'] E72 [['B', 'G', 'O', 'R']] 3 0 E158 ['R', 'B', 'P', 'Y'] [['B', 'G', 'O', 'R'], ['G', 'Y', 'R', 'P']] rfl ((calc_eq_fastP ['O', 'P', 'Y', 'G'] ['G', 'Y', 'R', 'P'] (by decide) (by decide)).trans (by decide)) (by decide) pe158 rfl nx158 (by decide) (by decide) (by decide)).trans ?_
  refine Eq.trans (step_lift ['G', 'Y', 'R', 'P'] (?_ : loopRun (honest ['O', 'P', 'Y', 'G']) 5 (some ['R', 'B', 'P', 'Y']) E158 [['B', 'G', 'O', 'R'], ['G', 'Y', 'R', 'P']] = (RunResult.solved ['O', 'P', 'Y', 'G'] 4, [['R', 'B', 'P', 'Y'], ['O', 'P', 'Y', 'G']]))) rfl
  refine (loopRun_step ['O', 'P', 'Y', 'G'] 5 4 ['R', 'B', 'P', 'Y'] E158 [['B', 'G', 'O', 'R'], ['G', 'Y', 'R', 'P']] 2 0 E181 ['O', 'P', 'Y', 'G'] [['B', 'G', 'O', 'R'], ['G', 'Y', 'R', 'P'], ['R', 'B', 'P', 'Y']] rfl ((calc_eq_fastP ['O', 'P', 'Y', 'G'] ['R', 'B', 'P', 'Y'] (by decide) (by decide)).trans (by decide)) (by decide) pe181 rfl nx181 (by decide) (by decide) (by decide)).trans ?_
  refine Eq.trans (step_lift ['R', 'B', 'P', 'Y'] (?_ : loopRun (honest ['O', 'P', 'Y', 'G']) 4 (some ['O', 'P', 'Y', 'G']) E181 [['B', 'G', 'O', 'R'], ['G', 'Y', 'R', 'P'], ['R', 'B', 'P', 'Y']] = (RunResult.solved ['O', 'P', 'Y', 'G'] 4, [['O', 'P', 'Y', 'G']]))) rfl
  exact loopRun_last ['O', 'P', 'Y', 'G'] 4 3 E181 [['B', 'G', 'O', 'R'], ['G', 'Y', 'R', 'P'], ['R', 'B', 'P', 'Y']] rfl rfl (by decide)

lemma rs179 : loopRun (honest ['O', 'P', 'Y', 'R']) 7 none S0 [] =
    (RunResult.solved ['O', 'P', 'Y', 'R'] 4, [['B', 'G', 'O', 'R'], ['B', 'O', 'Y', 'P'], ['B', 'Y', 'P', 'G'], ['O', 'P', 'Y', 'R']]) := by
  refine (loopRun_none' (honest ['O', 'P', 'Y', 'R']) 7 S0 []).trans ?_
  refine (loopRun_step ['O', 'P', 'Y', 'R'] 7 6 ['B', 'G', 'O', 'R'] S0 [] 1 1 E20 ['B', 'O', 'Y', 'P'] [['B', 'G', 'O', 'R']] rfl ((calc_eq_fastP ['O', 'P', 'Y', 'R'] ['B', 'G', 'O', 'R'] (by decide) (by decide)).trans (by decide)) (by decide) pe20 rfl nx20 (by decide) (by decide) (by decide)).trans ?_
  refine Eq.trans (step_lift ['B', 'G', 'O', 'R'] (?_ : loopRun (honest ['O', 'P', 'Y', 'R']) 6 (some ['B', 'O', 'Y', 'P']) E20 [['B', 'G', 'O', 'R']] = (RunResult.solved ['O', 'P', 'Y', 'R'] 4, [['B', 'O', 'Y', 'P'], ['B', 'Y', 'P', 'G'], ['O', 'P', 'Y', 'R']]))) rfl
  refine (loopRun_step ['O', 'P', 'Y', 'R'] 6 5 ['B', 'O', 'Y', 'P'] E20 [['B', 'G', 'O', 'R']] 2 1 E35 ['B', 'Y', 'P', 'G'] [['B', 'G', 'O', 'R'], ['B', 'O', 'Y', 'P']] rfl ((calc_eq_fastP ['O', 'P', 'Y', 'R'] ['B', 'O', 'Y', 'P'] (by decide) (by decide)).trans (by decide)) (by decide) pe35 rfl nx35 (by decide) (by decide) (by decide)).trans ?_
  refine Eq.trans (step_lift ['B', 'O', 'Y', 'P'] (?_ : loopRun (honest ['O', 'P', 'Y', 'R']) 5 (some ['B', 'Y', 'P', 'G']) E35 [['B', 'G', 'O', 'R'], ['B', 'O', 'Y', 'P']] = (RunResult.solved ['O', 'P', 'Y', 'R'] 4, [['B', 'Y', 'P', 'G'], ['O', 'P', 'Y', 'R']]))) rfl
  refine (loopRun_step ['O', 'P', 'Y', 'R'] 5 4 ['B', 'Y', 'P', 'G'] E35 [['B', 'G', 'O', 'R'], ['B', 'O', 'Y', 'P']] 2 0 E182 ['O', 'P', 'Y', 'R'] [['B', 'G', 'O', 'R'], ['B', 'O', 'Y', 'P'], ['B', 'Y', 'P', 'G']] rfl ((calc_eq_fastP ['O', 'P', 'Y', 'R'] ['B', 'Y', 'P', 'G'] (by decide) (by decide)).trans (by decide)) (by decide) pe182 rfl nx182 (by decide) (by decide) (by decide)).trans ?_
  refine Eq.trans (step_lift ['B', 'Y', 'P', 'G'] (?_ : loopRun (honest ['O', 'P', 'Y', 'R']) 4 (some ['O', 'P', 'Y', 'R']) E182 [['B', 'G', 'O', 'R'], ['B', 'O', 'Y', 'P'], ['B', 'Y', 'P', 'G']] = (RunResult.solved ['O', 'P', 'Y', 'R'] 4, [['O', 'P', 'Y', 'R']]))) rfl
  exact loopRun_last ['O', 'P', 'Y', 'R'] 4 3 E182 [['B', 'G', 'O', 'R'], ['B', 'O', 'Y', 'P'], ['B', 'Y', 'P', 'G']] rfl rfl (by decide)

lemma rs180 : loopRun (honest ['R', 'B', 'G', 'O']) 7 none S0 [] =
    (RunResult.solved ['R', 'B', 'G', 'O'] 4, [['B', 'G', 'O', 'R'], ['G', 'B', 'R', 'O'], ['G', 'O', 'R', 'B'], ['R', 'B', 'G', 'O']]) := by
  refine (loopRun_none' (honest ['R', 'B', 'G', 'O']) 7 S0 []).trans ?_
  refine (loopRun_step ['R', 'B', 'G', 'O'] 7 6 ['B', 'G', 'O', 'R'] S0 [] 4 0 E64 ['G', 'B', 'R', 'O'] [['B', 'G', 'O', 'R']] rfl ((calc_eq_fastP ['R', 'B', 'G', 'O'] ['B', 'G', 'O', 'R'] (by decide) (by decide)).trans (by decide)) (by decide) pe64 rfl nx64 (by decide) (by decide) (by decide)).trans ?_
  refine Eq.trans (step_lift ['B', 'G', 'O', 'R'] (?_ : loopRun (honest ['R', 'B', 'G', 'O']) 6 (some ['G', 'B', 'R', 'O']) E64 [['B', 'G', 'O', 'R']] = (RunResult.solved ['R', 'B', 'G', 'O'] 4, [['G', 'B', 'R', 'O'], ['G', 'O', 'R', 'B'], ['R', 'B', 'G', 'O']]))) rfl
  refine (loopRun_step ['R', 'B', 'G', 'O'] 6 5 ['G', 'B', 'R', 'O'] E64 [['B', 'G', 'O', 'R']] 2 2 E82 ['G', 'O', 'R', 'B'] [['B', 'G', 'O', 'R'], ['G', 'B', 'R', 'O']] rfl ((calc_eq_fastP ['R', 'B', 'G', 'O'] ['G', 'B', 'R', 'O'] (by decide) (by decide)).trans (by decide)) (by decide) pe82 rfl nx82 (by decide) (by decide) (by decide)).trans ?_
  refine Eq.trans (step_lift ['G', 'B', 'R', 'O'] (?_ : loopRun (honest ['R', 'B', 'G', 'O']) 5 (some ['G', 'O', 'R', 'B']) E82 [['B', 'G', 'O', 'R'], ['G', 'B', 'R', 'O']] = (RunResult.solved ['R', 'B', 'G', 'O'] 4, [['G', 'O', 'R', 'B'], ['R', 'B', 'G', 'O']]))) rfl
  refine (loopRun_step ['R', 'B', 'G', 'O'] 5 4 ['G', 'O', 'R', 'B'] E82 [['B', 'G', 'O', 'R'], ['G', 'B', 'R', 'O']] 4 0 [['R', 'B', 'G', 'O']] ['R', 'B', 'G', 'O'] [['B', 'G', 'O', 'R'], ['G', 'B', 'R', 'O'], ['G', 'O', 'R', 'B']] rfl ((calc_eq_fastP ['R', 'B', 'G', 'O'] ['G', 'O', 'R', 'B'] (by decide) (by decide)).trans (by decide)) (by decide) pe183 rfl (findNextGuess_singleton ['R', 'B', 'G', 'O'] [['B', 'G', 'O', 'R'], ['G', 'B', 'R', 'O'], ['G', 'O', 'R', 'B']]) (by decide) (by decide) (by decide)).trans ?_
  refine Eq.trans (step_lift ['G', 'O', 'R', 'B'] (?_ : loopRun (honest ['R', 'B', 'G', 'O']) 4 (some ['R', 'B', 'G', 'O']) [['R', 'B', 'G', 'O']] [['B', 'G', 'O', 'R'], ['G', 'B', 'R', 'O'], ['G', 'O', 'R', 'B']] = (RunResult.solved ['R', 'B', 'G', 'O'] 4, [['R', 'B', 'G', 'O']]))) rfl
  exact loopRun_last ['R', 'B', 'G', 'O'] 4 3 [['R', 'B', 'G', 'O']] [['B', 'G', 'O', 'R'], ['G', 'B', 'R', 'O'], ['G', 'O', 'R', 'B']] rfl rfl (by decide)

lemma rs181 : loopRun (honest ['R', 'B', 'G', 'Y']) 7 none S0 [] =
    (RunResult.solved ['R', 'B', 'G', 'Y'] 4, [['B', 'G', 'O', 'R'], ['G', 'O', 'R', 'Y'], ['G', 'B', 'Y', 'O'], ['R', 'B', 'G', 'Y']]) := by
  refine (loopRun_none' (honest ['R', 'B', 'G', 'Y']) 7 S0 []).trans ?_
  refine (loopRun_step ['R', 'B', 'G', 'Y'] 7 6 ['B', 'G', 'O', 'R'] S0 [] 3 0 E65 ['G', 'O', 'R', 'Y'] [['B', 'G', 'O', 'R']] rfl ((calc_eq_fastP ['R', 'B', 'G', 'Y'] ['B', 'G', 'O', 'R'] (by decide) (by decide)).trans (by decide)) (by decide) pe65 rfl nx65 (by decide) (by decide) (by decide)).trans ?_
  refine Eq.trans (step_lift ['B', 'G', 'O', 'R'] (?_ : loopRun (honest ['R', 'B', 'G', 'Y']) 6 (some ['G', 'O', 'R', 'Y']) E65 [['B', 'G', 'O', 'R']] = (RunResult.solved ['R', 'B', 'G', 'Y'] 4, [['G', 'O', 'R', 'Y'], ['G', 'B', 'Y', 'O'], ['R', 'B', 'G', 'Y']]))) rfl
  refine (loopRun_step ['R', 'B', 'G', 'Y'] 6 5 ['G', 'O', 'R', 'Y'] E65 [['B', 'G', 'O', 'R']] 2 1 E68 ['G', 'B', 'Y', 'O'] [['B', 'G', 'O', 'R'], ['G', 'O', 'R', 'Y']] rfl ((calc_eq_fastP ['R', 'B', 'G', 'Y'] ['G', 'O', 'R', 'Y'] (by decide) (by decide)).trans (by decide)) (by decide) pe68 rfl nx68 (by decide) (by decide) (by decide)).trans ?_
  refine Eq.trans (step_lift ['G', 'O', 'R', 'Y'] (?_ : loopRun (honest ['R', 'B', 'G', 'Y']) 5 (some ['G', 'B', 'Y', 'O']) E68 [['B', 'G', 'O', 'R'], ['G', 'O', 'R', 'Y']] = (RunResult.solved ['R', 'B', 'G', 'Y'] 4, [['G', 'B', 'Y', 'O'], ['R', 'B', 'G', 'Y']]))) rfl
  refine (loopRun_step ['R', 'B', 'G', 'Y'] 5 4 ['G', 'B', 'Y', 'O'] E68 [['B', 'G', 'O', 'R'], ['G', 'O', 'R', 'Y']] 2 1 E184 ['R', 'B', 'G', 'Y'] [['B', 'G', 'O', 'R'], ['G', 'O', 'R', 'Y'], ['G', 'B', 'Y', 'O']] rfl ((calc_eq_fastP ['R', 'B', 'G', 'Y'] ['G', 'B', 'Y', 'O'] (by decide) (by decide)).trans (by decide)) (by decide) pe184 rfl nx184 (by decide) (by decide) (by decide)).trans ?_
  refine Eq.trans (step_lift ['G', 'B', 'Y', 'O'] (?_ : loopRun (honest ['R', 'B', 'G', 'Y']) 4 (some ['R', 'B', 'G', 'Y']) E184 [['B', 'G', 'O', 'R'], ['G', 'O', 'R', 'Y'], ['G', 'B', 'Y', 'O']] = (RunResult.solved ['R', 'B', 'G', 'Y'] 4, [['R', 'B', 'G', 'Y']]))) rfl
  exact loopRun_last ['R', 'B', 'G', 'Y'] 4 3 E184 [['B', 'G', 'O', 'R'], ['G', 'O', 'R', 'Y'], ['G', 'B', 'Y', 'O']] rfl rfl (by decide)

lemma rs182 : loopRun (honest ['R', 'B', 'G', 'P']) 7 none S0 [] =
    (RunResult.solved ['R', 'B', 'G', 'P'] 4, [['B', 'G', 'O', 'R'], ['G', 'O', 'R', 'Y'], ['O', 'B', 'P', 'G'], ['R', 'B', 'G', 'P']]) := by
  refine (loopRun_none' (honest ['R', 'B', 'G', 'P']) 7 S0 []).trans ?_
  refine (loopRun_step ['R', 'B', 'G', 'P'] 7 6 ['B', 'G', 'O', 'R'] S0 [] 3 0 E65 ['G', 'O', 'R', 'Y'] [['B', 'G', 'O', 'R']] rfl ((calc_eq_fastP ['R', 'B', 'G', 'P'] ['B', 'G', 'O', 'R'] (by decide) (by decide)).trans (by decide)) (by decide) pe65 rfl nx65 (by decide) (by decide) (by decide)).trans ?_
  refine Eq.trans (step_lift ['B', 'G', 'O', 'R'] (?_ : loopRun (honest ['R', 'B', 'G', 'P']) 6 (some ['G', 'O', 'R', 'Y']) E65 [['B', 'G', 'O', 'R']] = (RunResult.solved ['R', 'B', 'G', 'P'] 4, [['G', 'O', 'R', 'Y'], ['O', 'B', 'P', 'G'], ['R', 'B', 'G', 'P']]))) rfl
  refine (loopRun_step ['R', 'B', 'G', 'P'] 6 5 ['G', 'O', 'R', 'Y'] E65 [['B', 'G', 'O', 'R']] 2 0 E123 ['O', 'B', 'P', 'G'] [['B', 'G', 'O', 'R'], ['G', 'O', 'R', 'Y']] rfl ((calc_eq_fastP ['R', 'B', 'G', 'P'] ['G', 'O', 'R', 'Y'] (by decide) (by decide)).trans (by decide)) (by decide) pe123 rfl nx123 (by decide) (by decide) (by decide)).trans ?_
  refine Eq.trans (step_lift ['G', 'O', 'R', 'Y'] (?_ : loopRun (honest ['R', 'B', 'G', 'P']) 5 (some ['O', 'B', 'P', 'G']) E123 [['B', 'G', 'O', 'R'], ['G', 'O', 'R', 'Y']] = (RunResult.solved ['R', 'B', 'G', 'P'] 4, [['O', 'B', 'P', 'G'], ['R', 'B', 'G', 'P']]))) rfl
  refine (loopRun_step ['R', 'B', 'G', 'P'] 5 4 ['O', 'B', 'P', 'G'] E123 [['B', 'G', 'O', 'R'], ['G', 'O', 'R', 'Y']] 2 1 E148 ['R', 'B', 'G', 'P'] [['B', 'G', 'O', 'R'], ['G', 'O', 'R', 'Y'], ['O', 'B', 'P', 'G']] rfl ((calc_eq_fastP ['R', 'B', 'G', 'P'] ['O', 'B', 'P', 'G'] (by decide) (by decide)).trans (by decide)) (by decide) pe148 rfl nx148 (by decide) (by decide) (by decide)).trans ?_
  refine Eq.trans (step_lift ['O', 'B', 'P', 'G'] (?_ : loopRun (honest ['R', 'B', 'G', 'P']) 4 (some ['R', 'B', 'G', 'P']) E148 [['B', 'G', 'O', 'R'], ['G', 'O', 'R', 'Y'], ['O', 'B', 'P', 'G']] = (RunResult.solved ['R', 'B', 'G', 'P'] 4, [['R', 'B', 'G', 'P']]))) rfl
  exact loopRun_last ['R', 'B', 'G', 'P'] 4 3 E148 [['B', 'G', 'O', 'R'], ['G', 'O', 'R', 'Y'], ['O', 'B', 'P', 'G']] rfl rfl (by decide)

lemma rs183 : loopRun (honest ['R', 'B', 'O', 'G']) 7 none S0 [] =
    (RunResult.solved ['R', 'B', 'O', 'G'] 6, [['B', 'G', 'O', 'R'], ['B', 'O', 'R', 'G'], ['B', 'R', 'G', 'O'], ['G', 'O', 'B', 'R'], ['O', 'G', 'R', 'B'], ['R', 'B', 'O', 'G']]) := by
  refine (loopRun_none' (honest ['R', 'B', 'O', 'G']) 7 S0 []).trans ?_
  refine (loopRun_step ['R', 'B', 'O', 'G'] 7 6 ['B', 'G', 'O', 'R'] S0 [] 3 1 E16 ['B', 'O', 'R', 'G'] [['B', 'G', 'O', 'R']] rfl ((calc_eq_fastP ['R', 'B', 'O', 'G'] ['B', 'G', 'O', 'R'] (by decide) (by decide)).trans (by decide)) (by decide) pe16 rfl nx16 (by decide) (by decide) (by decide)).trans ?_
  refine Eq.trans (step_lift ['B', 'G', 'O', 'R'] (?_ : loopRun (honest ['R', 'B', 'O', 'G']) 6 (some ['B', 'O', 'R', 'G']) E16 [['B', 'G', 'O', 'R']] = (RunResult.solved ['R', 'B', 'O', 'G'] 6, [['B', 'O', 'R', 'G'], ['B', 'R', 'G', 'O'], ['G', 'O', 'B', 'R'], ['O', 'G', 'R', 'B'], ['R', 'B', 'O', 'G']]))) rfl
  refine (loopRun_step ['R', 'B', 'O', 'G'] 6 5 ['B', 'O', 'R', 'G'] E16 [['B', 'G', 'O', 'R']] 3 1 E24 ['B', 'R', 'G', 'O'] [['B', 'G', 'O', 'R'], ['B', 'O', 'R', 'G']] rfl ((calc_eq_fastP ['R', 'B', 'O', 'G'] ['B', 'O', 'R', 'G'] (by decide) (by decide)).trans (by decide)) (by decide) pe24 rfl nx24 (by decide) (by decide) (by decide)).trans ?_
  refine Eq.trans (step_lift ['B', 'O', 'R', 'G'] (?_ : loopRun (honest ['R', 'B', 'O', 'G']) 5 (some ['B', 'R', 'G', 'O']) E24 [['B', 'G', 'O', 'R'], ['B', 'O', 'R', 'G']] = (RunResult.solved ['R', 'B', 'O', 'G'] 6, [['B', 'R', 'G', 'O'], ['G', 'O', 'B', 'R'], ['O', 'G', 'R', 'B'], ['R', 'B', 'O', 'G']]))) rfl
  refine (loopRun_step ['R', 'B', 'O', 'G'] 5 4 ['B', 'R', 'G', 'O'] E24 [['B', 'G', 'O', 'R'], ['B', 'O', 'R', 'G']] 4 0 E79 ['G', 'O', 'B', 'R'] [['B', 'G', 'O', 'R'], ['B', 'O', 'R', 'G'], ['B', 'R', 'G', 'O']] rfl ((calc_eq_fastP ['R', 'B', 'O', 'G'] ['B', 'R', 'G', 'O'] (by decide) (by decide)).trans (by decide)) (by decide) pe79 rfl nx79 (by decide) (by decide) (by decide)).trans ?_
  refine Eq.trans (step_lift ['B', 'R', 'G', 'O'] (?_ : loopRun (honest ['R', 'B', 'O', 'G']) 4 (some ['G', 'O', 'B', 'R']) E79 [['B', 'G', 'O', 'R'], ['B', 'O', 'R', 'G'], ['B', 'R', 'G', 'O']] = (RunResult.solved ['R', 'B', 'O', 'G'] 6, [['G', 'O', 'B', 'R'], ['O', 'G', 'R', 'B'], ['R', 'B', 'O', 'G']]))) rfl
  refine (loopRun_step ['R', 'B', 'O', 'G'] 4 3 ['G', 'O', 'B', 'R'] E79 [['B', 'G', 'O', 'R'], ['B', 'O', 'R', 'G'], ['B', 'R', 'G', 'O']] 4 0 E137 ['O', 'G', 'R', 'B'] [['B', 'G', 'O', 'R'], ['B', 'O', 'R', 'G'], ['B', 'R', 'G', 'O'], ['G', 'O', 'B', 'R']] rfl ((calc_eq_fastP ['R', 'B', 'O', 'G'] ['G', 'O', 'B', 'R'] (by decide) (by decide)).trans (by decide)) (by decide) pe137 rfl nx137 (by decide) (by decide) (by decide)).trans ?_
  refine Eq.trans (step_lift ['G', 'O', 'B', 'R'] (?_ : loopRun (honest ['R', 'B', 'O', 'G']) 3 (some ['O', 'G', 'R', 'B']) E137 [['B', 'G', 'O', 'R'], ['B', 'O', 'R', 'G'], ['B', 'R', 'G', 'O'], ['G', 'O', 'B', 'R']] = (RunResult.solved ['R', 'B', 'O', 'G'] 6, [['O', 'G', 'R', 'B'], ['R', 'B', 'O', 'G']]))) rfl
  refine (loopRun_step ['R', 'B', 'O', 'G'] 3 2 ['O', 'G', 'R', 'B'] E137 [['B', 'G', 'O', 'R'], ['B', 'O', 'R', 'G'], ['B', 'R', 'G', 'O'], ['G', 'O', 'B', 'R']] 4 0 [['R', 'B', 'O', 'G']] ['R', 'B', 'O', 'G'] [['B', 'G', 'O', 'R'], ['B', 'O', 'R', 'G'], ['B', 'R', 'G', 'O'], ['G', 'O', 'B', 'R'], ['O', 'G', 'R', 'B']] rfl ((calc_eq_fastP ['R', 'B', 'O', 'G'] ['O', 'G', 'R', 'B'] (by decide) (by decide)).trans (by decide)) (by decide) pe185 rfl (findNextGuess_singleton ['R', 'B', 'O', 'G'] [['B', 'G', 'O', 'R'], ['B', 'O', 'R', 'G'], ['B', 'R', 'G', 'O'], ['G', 'O', 'B', 'R'], ['O', 'G', 'R', 'B']]) (by decide) (by decide) (by decide)).trans ?_
  refine Eq.trans (step_lift ['O', 'G', 'R', 'B'] (?_ : loopRun (honest ['R', 'B', 'O', 'G']) 2 (some ['R', 'B', 'O', 'G']) [['R', 'B', 'O', 'G']] [['B', 'G', 'O', 'R'], ['B', 'O', 'R', 'G'], ['B', 'R', 'G', 'O'], ['G', 'O', 'B', 'R'], ['O', 'G', 'R', 'B']] = (RunResult.solved ['R', 'B', 'O', 'G'] 6, [['R', 'B', 'O', 'G']]))) rfl
  exact loopRun_last ['R', 'B', 'O', 'G'] 2 1 [['R', 'B', 'O', 'G']] [['B', 'G', 'O', 'R'], ['B', 'O', 'R', 'G'], ['B', 'R', 'G', 'O'], ['G', 'O', 'B', 'R'], ['O', 'G', 'R', 'B']] rfl rfl (by decide)

lemma rs184 : loopRun (honest ['R', 'B', 'O', 'Y']) 7 none S0 [] =
    (RunResult.solved ['R', 'B', 'O', 'Y'] 4, [['B', 'G', 'O', 'R'], ['B', 'O', 'R', 'Y'], ['B', 'R', 'Y', 'O'], ['R', 'B', 'O', 'Y']]) := by
  refine (loopRun_none' (honest ['R', 'B', 'O', 'Y']) 7 S0 []).trans ?_
  refine (loopRun_step ['R', 'B', 'O', 'Y'] 7 6 ['B', 'G', 'O', 'R'] S0 [] 2 1 E13 ['B', 'O', 'R', 'Y'] [['B', 'G', 'O', 'R']] rfl ((calc_eq_fastP ['R', 'B', 'O', 'Y'] ['B', 'G', 'O', 'R'] (by decide) (by decide)).trans (by decide)) (by decide) pe13 rfl nx13 (by decide) (by decide) (by decide)).trans ?_
  refine Eq.trans (step_lift ['B', 'G', 'O', 'R'] (?_ : loopRun (honest ['R', 'B', 'O', 'Y']) 6 (some ['B', 'O', 'R', 'Y']) E13 [['B', 'G', 'O', 'R']] = (RunResult.solved ['R', 'B', 'O', 'Y'] 4, [['B', 'O', 'R', 'Y'], ['B', 'R', 'Y', 'O'], ['R', 'B', 'O', 'Y']]))) rfl
  refine (loopRun_step ['R', 'B', 'O', 'Y'] 6 5 ['B', 'O', 'R', 'Y'] E13 [['B', 'G', 'O', 'R']] 3 1 E31 ['B', 'R', 'Y', 'O'] [['B', 'G', 'O', 'R'], ['B', 'O', 'R', 'Y']] rfl ((calc_eq_fastP ['R', 'B', 'O', 'Y'] ['B', 'O', 'R', 'Y'] (by decide) (by decide)).trans (by decide)) (by decide) pe31 rfl nx31 (by decide) (by decide) (by decide)).trans ?_
  refine Eq.trans (step_lift ['B', 'O', 'R', 'Y'] (?_ : loopRun (honest ['R', 'B', 'O', 'Y']) 5 (some ['B', 'R', 'Y', 'O']) E31 [['B', 'G', 'O', 'R'], ['B', 'O', 'R', 'Y']] = (RunResult.solved ['R', 'B', 'O', 'Y'] 4, [['B', 'R', 'Y', 'O'], ['R', 'B', 'O', 'Y']]))) rfl
  refine (loopRun_step ['R', 'B', 'O', 'Y'] 5 4 ['B', 'R', 'Y', 'O'] E31 [['B', 'G', 'O', 'R'], ['B', 'O', 'R', 'Y']] 4 0 E186 ['R', 'B', 'O', 'Y'] [['B', 'G', 'O', 'R'], ['B', 'O', 'R', 'Y'], ['B', 'R', 'Y', 'O']] rfl ((calc_eq_fastP ['R', 'B', 'O', 'Y'] ['B', 'R', 'Y', 'O'] (by decide) (by decide)).trans (by decide)) (by decide) pe186 rfl nx186 (by decide) (by decide) (by decide)).trans ?_
  refine Eq.trans (step_lift ['B', 'R', 'Y', 'O'] (?_ : loopRun (honest ['R', 'B', 'O', 'Y']) 4 (some ['R', 'B', 'O', 'Y']) E186 [['B', 'G', 'O', 'R'], ['B', 'O', 'R', 'Y'], ['B', 'R', 'Y', 'O']] = (RunResult.solved ['R', 'B', 'O', 'Y'] 4, [['R', 'B', 'O', 'Y']]))) rfl
  exact loopRun_last ['R', 'B', 'O', 'Y'] 4 3 E186 [['B', 'G', 'O', 'R'], ['B', 'O', 'R', 'Y'], ['B', 'R', 'Y', 'O']] rfl rfl (by decide)

lemma rs185 : loopRun (honest ['R', 'B', 'O', 'P']) 7 none S0 [] =
    (RunResult.solved ['R', 'B', 'O', 'P'] 4, [['B', 'G', 'O', 'R'], ['B', 'O', 'R', 'Y'], ['O', 'Y', 'G', 'R'], ['R', 'B', 'O', 'P']]) := by
  refine (loopRun_none' (honest ['R', 'B', 'O', 'P']) 7 S0 []).trans ?_
  refine (loopRun_step ['R', 'B', 'O', 'P'] 7 6 ['B', 'G', 'O', 'R'] S0 [] 2 1 E13 ['B', 'O', 'R', 'Y'] [['B', 'G', 'O', 'R']] rfl ((calc_eq_fastP ['R', 'B', 'O', 'P'] ['B', 'G', 'O', 'R'] (by decide) (by decide)).trans (by decide)) (by decide) pe13 rfl nx13 (by decide) (by decide) (by decide)).trans ?_
  refine Eq.trans (step_lift ['B', 'G', 'O', 'R'] (?_ : loopRun (honest ['R', 'B', 'O', 'P']) 6 (some ['B', 'O', 'R', 'Y']) E13 [['B', 'G', 'O', 'R']] = (RunResult.solved ['R', 'B', 'O', 'P'] 4, [['B', 'O', 'R', 'Y'], ['O', 'Y', 'G', 'R'], ['R', 'B', 'O', 'P']]))) rfl
  refine (loopRun_step ['R', 'B', 'O', 'P'] 6 5 ['B', 'O', 'R', 'Y'] E13 [['B', 'G', 'O', 'R']] 3 0 E69 ['O', 'Y', 'G', 'R'] [['B', 'G', 'O', 'R'], ['B', 'O', 'R', 'Y']] rfl ((calc_eq_fastP ['R', 'B', 'O', 'P'] ['B', 'O', 'R', 'Y'] (by decide) (by decide)).trans (by decide)) (by decide) pe69 rfl nx69 (by decide) (by decide) (by decide)).trans ?_
  refine Eq.trans (step_lift ['B', 'O', 'R', 'Y'] (?_ : loopRun (honest ['R', 'B', 'O', 'P']) 5 (some ['O', 'Y', 'G', 'R']) E69 [['B', 'G', 'O', 'R'], ['B', 'O', 'R', 'Y']] = (RunResult.solved ['R', 'B', 'O', 'P'] 4, [['O', 'Y', 'G', 'R'], ['R', 'B', 'O', 'P']]))) rfl
  refine (loopRun_step ['R', 'B', 'O', 'P'] 5 4 ['O', 'Y', 'G', 'R'] E69 [['B', 'G', 'O', 'R'], ['B', 'O', 'R', 'Y']] 2 0 E187 ['R', 'B', 'O', 'P'] [['B', 'G', 'O', 'R'], ['B', 'O', 'R', 'Y'], ['O', 'Y', 'G', 'R']] rfl ((calc_eq_fastP ['R', 'B', 'O', 'P'] ['O', 'Y', 'G', 'R'] (by decide) (by decide)).trans (by decide)) (by decide) pe187 rfl nx187 (by decide) (by decide) (by decide)).trans ?_
  refine Eq.trans (step_lift ['O', 'Y', 'G', 'R'] (?_ : loopRun (honest ['R', 'B', 'O', 'P']) 4 (some ['R', 'B', 'O', 'P']) E187 [['B', 'G', 'O', 'R'], ['B', 'O', 'R', 'Y'], ['O', 'Y', 'G', 'R']] = (RunResult.solved ['R', 'B', 'O', 'P'] 4, [['R', 'B', 'O', 'P']]))) rfl
  exact loopRun_last ['R', 'B', 'O', 'P'] 4 3 E187 [['B', 'G', 'O', 'R'], ['B', 'O', 'R', 'Y'], ['O', 'Y', 'G', 'R']] rfl rfl (by decide)

lemma rs186 : loopRun (honest ['R', 'B', 'Y', 'G']) 7 none S0 [] =
    (RunResult.solved ['R', 'B', 'Y', 'G'] 4, [['B', 'G', 'O', 'R'], ['G', 'O', 'R', 'Y'], ['O', 'B', 'Y', 'G'], ['R', 'B', 'Y', 'G']]) := by
  refine (loopRun_none' (honest ['R', 'B', 'Y', 'G']) 7 S0 []).trans ?_
  refine (loopRun_step ['R', 'B', 'Y', 'G'] 7 6 ['B', 'G', 'O', 'R'] S0 [] 3 0 E65 ['G', 'O', 'R', 'Y'] [['B', 'G', 'O', 'R']] rfl ((calc_eq_fastP ['R', 'B', 'Y', 'G'] ['B', 'G', 'O', 'R'] (by decide) (by decide)).trans (by decide)) (by decide) pe65 rfl nx65 (by decide) (by decide) (by decide)).trans ?_
  refine Eq.trans (step_lift ['B', 'G', 'O', 'R'] (?_ : loopRun (honest ['R', 'B', 'Y', 'G']) 6 (some ['G', 'O', 'R', 'Y']) E65 [['B', 'G', 'O', 'R']] = (RunResult.solved ['R', 'B', 'Y', 'G'] 4, [['G', 'O', 'R', 'Y'], ['O', 'B', 'Y', 'G'], ['R', 'B', 'Y', 'G']]))) rfl
  refine (loopRun_step ['R', 'B', 'Y', 'G'] 6 5 ['G', 'O', 'R', 'Y'] E65 [['B', 'G', 'O', 'R']] 3 0 E128 ['O', 'B', 'Y', 'G'] [['B', 'G', 'O', 'R'], ['G', 'O', 'R', 'Y']] rfl ((calc_eq_fastP ['R', 'B', 'Y', 'G'] ['G', 'O', 'R', 'Y'] (by decide) (by decide)).trans (by decide)) (by decide) pe128 rfl nx128 (by decide) (by decide) (by decide)).trans ?_
  refine Eq.trans (step_lift ['G', 'O', 'R', 'Y'] (?_ : loopRun (honest ['R', 'B', 'Y', 'G']) 5 (some ['O', 'B', 'Y', 'G']) E128 [['B', 'G', 'O', 'R'], ['G', 'O', 'R', 'Y']] = (RunResult.solved ['R', 'B', 'Y', 'G'] 4, [['O', 'B', 'Y', 'G'], ['R', 'B', 'Y', 'G']]))) rfl
  refine (loopRun_step ['R', 'B', 'Y', 'G'] 5 4 ['O', 'B', 'Y', 'G'] E128 [['B', 'G', 'O', 'R'], ['G', 'O', 'R', 'Y']] 0 3 [['R', 'B', 'Y', 'G']] ['R', 'B', 'Y', 'G'] [['B', 'G', 'O', 'R'], ['G', 'O', 'R', 'Y'], ['O', 'B', 'Y', 'G']] rfl ((calc_eq_fastP ['R', 'B', 'Y', 'G'] ['O', 'B', 'Y', 'G'] (by decide) (by decide)).trans (by decide)) (by decide) pe188 rfl (findNextGuess_singleton ['R', 'B', 'Y', 'G'] [['B', 'G', 'O', 'R'], ['G', 'O', 'R', 'Y'], ['O', 'B', 'Y', 'G']]) (by decide) (by decide) (by decide)).trans ?_
  refine Eq.trans (step_lift ['O', 'B', 'Y', 'G'] (?_ : loopRun (honest ['R', 'B', 'Y', 'G']) 4 (some ['R', 'B', 'Y', 'G']) [['R', 'B', 'Y', 'G']] [['B', 'G', 'O', 'R'], ['G', 'O', 'R', 'Y'], ['O', 'B', 'Y', 'G']] = (RunResult.solved ['R', 'B', 'Y', 'G'] 4, [['R', 'B', 'Y', 'G']]))) rfl
  exact loopRun_last ['R', 'B', 'Y', 'G'] 4 3 [['R', 'B', 'Y', 'G']] [['B', 'G', 'O', 'R'], ['G', 'O', 'R', 'Y'], ['O', 'B', 'Y', 'G']] rfl rfl (by decide)

lemma rs187 : loopRun (honest ['R', 'B', 'Y', 'O']) 7 none S0 [] =
    (RunResult.solved ['R', 'B', 'Y', 'O'] 5, [['B', 'G', 'O', 'R'], ['G', 'O', 'R', 'Y'], ['O', 'B', 'Y', 'G'], ['O', 'R', 'Y', 'B'], ['R', 'B', 'Y', 'O']]) := by
  refine (loopRun_none' (honest ['R', 'B', 'Y', 'O']) 7 S0 []).trans ?_
  refine (loopRun_step ['R', 'B', 'Y', 'O'] 7 6 ['B', 'G', 'O', 'R'] S0 [] 3 0 E65 ['G', 'O', 'R', 'Y'] [['B', 'G', 'O', 'R']] rfl ((calc_eq_fastP ['R', 'B', 'Y', 'O'] ['B', 'G', 'O', 'R'] (by decide) (by decide)).trans (by decide)) (by decide) pe65 rfl nx65 (by decide) (by decide) (by decide)).trans ?_
  refine Eq.trans (step_lift ['B', 'G', 'O', 'R'] (?_ : loopRun (honest ['R', 'B', 'Y', 'O']) 6 (some ['G', 'O', 'R', 'Y']) E65 [['B', 'G', 'O', 'R']] = (RunResult.solved ['R', 'B', 'Y', 'O'] 5, [['G', 'O', 'R', 'Y'], ['O', 'B', 'Y', 'G'], ['O', 'R', 'Y', 'B'], ['R', 'B', 'Y', 'O']]))) rfl
  refine (loopRun_step ['R', 'B', 'Y', 'O'] 6 5 ['G', 'O', 'R', 'Y'] E65 [['B', 'G', 'O', 'R']] 3 0 E128 ['O', 'B', 'Y', 'G'] [['B', 'G', 'O', 'R'], ['G', 'O', 'R', 'Y']] rfl ((calc_eq_fastP ['R', 'B', 'Y', 'O'] ['G', 'O', 'R', 'Y'] (by decide) (by decide)).trans (by decide)) (by decide) pe128 rfl nx128 (by decide) (by decide) (by decide)).trans ?_
  refine Eq.trans (step_lift ['G', 'O', 'R', 'Y'] (?_ : loopRun (honest ['R', 'B', 'Y', 'O']) 5 (some ['O', 'B', 'Y', 'G']) E128 [['B', 'G', 'O', 'R'], ['G', 'O', 'R', 'Y']] = (RunResult.solved ['R', 'B', 'Y', 'O'] 5, [['O', 'B', 'Y', 'G'], ['O', 'R', 'Y', 'B'], ['R', 'B', 'Y', 'O']]))) rfl
  refine (loopRun_step ['R', 'B', 'Y', 'O'] 5 4 ['O', 'B', 'Y', 'G'] E128 [['B', 'G', 'O', 'R'], ['G', 'O', 'R', 'Y']] 1 2 E153 ['O', 'R', 'Y', 'B'] [['B', 'G', 'O', 'R'], ['G', 'O', 'R', 'Y'], ['O', 'B', 'Y', 'G']] rfl ((calc_eq_fastP ['R', 'B', 'Y', 'O'] ['O', 'B', 'Y', 'G'] (by decide) (by decide)).trans (by decide)) (by decide) pe153 rfl nx153 (by decide) (by decide) (by decide)).trans ?_
  refine Eq.trans (step_lift ['O', 'B', 'Y', 'G'] (?_ : loopRun (honest ['R', 'B', 'Y', 'O']) 4 (some ['O', 'R', 'Y', 'B']) E153 [['B', 'G', 'O', 'R'], ['G', 'O', 'R', 'Y'], ['O', 'B', 'Y', 'G']] = (RunResult.solved ['R', 'B', 'Y', 'O'] 5, [['O', 'R', 'Y', 'B'], ['R', 'B', 'Y', 'O']]))) rfl
  refine (loopRun_step ['R', 'B', 'Y', 'O'] 4 3 ['O', 'R', 'Y', 'B'] E153 [['B', 'G', 'O', 'R'], ['G', 'O', 'R', 'Y'], ['O', 'B', 'Y', 'G']] 3 1 [['R', 'B', 'Y', 'O']] ['R', 'B', 'Y', 'O'] [['B', 'G', 'O', 'R'], ['G', 'O', 'R', 'Y'], ['O', 'B', 'Y', 'G'], ['O', 'R', 'Y', 'B']] rfl ((calc_eq_fastP ['R', 'B', 'Y', 'O'] ['O', 'R', 'Y', 'B'] (by decide) (by decide)).trans (by decide)) (by decide) pe189 rfl (findNextGuess_singleton ['R', 'B', 'Y', 'O'] [['B', 'G', 'O', 'R'], ['G', 'O', 'R', 'Y'], ['O', 'B', 'Y', 'G'], ['O', 'R', 'Y', 'B']]) (by decide) (by decide) (by decide)).trans ?_
  refine Eq.trans (step_lift ['O', 'R', 'Y', 'B'] (?_ : loopRun (honest ['R', 'B', 'Y', 'O']) 3 (some ['R', 'B', 'Y', 'O']) [['R', 'B', 'Y', 'O']] [['B', 'G', 'O', 'R'], ['G', 'O', 'R', 'Y'], ['O', 'B', 'Y', 'G'], ['O', 'R', 'Y', 'B']] = (RunResult.solved ['R', 'B', 'Y', 'O'] 5, [['R', 'B', 'Y', 'O']]))) rfl
  exact loopRun_last ['R', 'B', 'Y', 'O'] 3 2 [['R', 'B', 'Y', 'O']] [['B', 'G', 'O', 'R'], ['G', 'O', 'R', 'Y'], ['O', 'B', 'Y', 'G'], ['O', 'R', 'Y', 'B']] rfl rfl (by decide)

lemma rs188 : loopRun (honest ['R', 'B', 'Y', 'P']) 7 none S0 [] =
    (RunResult.solved ['R', 'B', 'Y', 'P'] 5, [['B', 'G', 'O', 'R'], ['G', 'Y', 'R', 'P'], ['G', 'B', 'P', 'Y'], ['G', 'P', 'Y', 'O'], ['R', 'B', 'Y', 'P']]) := by
  refine (loopRun_none' (honest ['R', 'B', 'Y', 'P']) 7 S0 []).trans ?_
  refine (loopRun_step ['R', 'B', 'Y', 'P'] 7 6 ['B', 'G', 'O', 'R'] S0 [] 2 0 E72 ['G', 'Y', 'R', 'P'] [['B', 'G', 'O', 'R']] rfl ((calc_eq_fastP ['R', 'B', 'Y', 'P'] ['B', 'G', 'O', 'R'] (by decide) (by decide)).trans (by decide)) (by decide) pe72 rfl nx72 (by decide) (by decide) (by decide)).trans ?_
  refine Eq.trans (step_lift ['B', 'G', 'O', 'R'] (?_ : loopRun (honest ['R', 'B', 'Y', 'P']) 6 (some ['G', 'Y', 'R', 'P']) E72 [['B', 'G', 'O', 'R']] = (RunResult.solved ['R', 'B', 'Y', 'P'] 5, [['G', 'Y', 'R', 'P'], ['G', 'B', 'P', 'Y'], ['G', 'P', 'Y', 'O'], ['R', 'B', 'Y', 'P']]))) rfl
  refine (loopRun_step ['R', 'B', 'Y', 'P'] 6 5 ['G', 'Y', 'R', 'P'] E72 [['B', 'G', 'O', 'R']] 2 1 E78 ['G', 'B', 'P', 'Y'] [['B', 'G', 'O', 'R'], ['G', 'Y', 'R', 'P']] rfl ((calc_eq_fastP ['R', 'B', 'Y', 'P'] ['G', 'Y', 'R', 'P'] (by decide) (by decide)).trans (by decide)) (by decide) pe78 rfl nx78 (by decide) (by decide) (by decide)).trans ?_
  refine Eq.trans (step_lift ['G', 'Y', 'R', 'P'] (?_ : loopRun (honest ['R', 'B', 'Y', 'P']) 5 (some ['G', 'B', 'P', 'Y']) E78 [['B', 'G', 'O', 'R'], ['G', 'Y', 'R', 'P']] = (RunResult.solved ['R', 'B', 'Y', 'P'] 5, [['G', 'B', 'P', 'Y'], ['G', 'P', 'Y', 'O'], ['R', 'B', 'Y', 'P']]))) rfl
  refine (loopRun_step ['R', 'B', 'Y', 'P'] 5 4 ['G', 'B', 'P', 'Y'] E78 [['B', 'G', 'O', 'R'], ['G', 'Y', 'R', 'P']] 2 1 E119 ['G', 'P', 'Y', 'O'] [['B', 'G', 'O', 'R'], ['G', 'Y', 'R', 'P'], ['G', 'B', 'P', 'Y']] rfl ((calc_eq_fastP ['R', 'B', 'Y', 'P'] ['G', 'B', 'P', 'Y'] (by decide) (by decide)).trans (by decide)) (by decide) pe119 rfl nx119 (by decide) (by decide) (by decide)).trans ?_
  refine Eq.trans (step_lift ['G', 'B', 'P', 'Y'] (?_ : loopRun (honest ['R', 'B', 'Y', 'P']) 4 (some ['G', 'P', 'Y', 'O']) E119 [['B', 'G', 'O', 'R'], ['G', 'Y', 'R', 'P'], ['G', 'B', 'P', 'Y']] = (RunResult.solved ['R', 'B', 'Y', 'P'] 5, [['G', 'P', 'Y', 'O'], ['R', 'B', 'Y', 'P']]))) rfl
  refine (loopRun_step ['R', 'B', 'Y', 'P'] 4 3 ['G', 'P', 'Y', 'O'] E119 [['B', 'G', 'O', 'R'], ['G', 'Y', 'R', 'P'], ['G', 'B', 'P', 'Y']] 1 1 [['R', 'B', 'Y', 'P']] ['R', 'B', 'Y', 'P'] [['B', 'G', 'O', 'R'], ['G', 'Y', 'R', 'P'], ['G', 'B', 'P', 'Y'], ['G', 'P', 'Y', 'O']] rfl ((calc_eq_fastP ['R', 'B', 'Y', 'P'] ['G', 'P', 'Y', 'O'] (by decide) (by decide)).trans (by decide)) (by decide) pe190 rfl (findNextGuess_singleton ['R', 'B', 'Y', 'P'] [['B', 'G', 'O', 'R'], ['G', 'Y', 'R', 'P'], ['G', 'B', 'P', 'Y'], ['G', 'P', 'Y', 'O']]) (by decide) (by decide) (by decide)).trans ?_
  refine Eq.trans (step_lift ['G', 'P', 'Y', 'O'] (?_ : loopRun (honest ['R', 'B', 'Y', 'P']) 3 (some ['R', 'B', 'Y', 'P']) [['R', 'B', 'Y', 'P']] [['B', 'G', 'O', 'R'], ['G', 'Y', 'R', 'P'], ['G', 'B', 'P', 'Y'], ['G', 'P', 'Y', 'O']] = (RunResult.solved ['R', 'B', 'Y', 'P'] 5, [['R', 'B', 'Y', 'P']]))) rfl
  exact loopRun_last ['R', 'B', 'Y', 'P'] 3 2 [['R', 'B', 'Y', 'P']] [['B', 'G', 'O', 'R'], ['G', 'Y', 'R', 'P'], ['G', 'B', 'P', 'Y'], ['G', 'P', 'Y', 'O']] rfl rfl (by decide)

lemma rs189 : loopRun (honest ['R', 'B', 'P', 'G']) 7 none S0 [] =
    (RunResult.solved ['R', 'B', 'P', 'G'] 4, [['B', 'G', 'O', 'R'], ['G', 'O', 'R', 'Y'], ['O', 'B', 'P', 'G'], ['R', 'B', 'P', 'G']]) := by
  refine (loopRun_none' (honest ['R', 'B', 'P', 'G']) 7 S0 []).trans ?_
  refine (loopRun_step ['R', 'B', 'P', 'G'] 7 6 ['B', 'G', 'O', 'R'] S0 [] 3 0 E65 ['G', 'O', 'R', 'Y'] [['B', 'G', 'O', 'R']] rfl ((calc_eq_fastP ['R', 'B', 'P', 'G'] ['B', 'G', 'O', 'R'] (by decide) (by decide)).trans (by decide)) (by decide) pe65 rfl nx65 (by decide) (by decide) (by decide)).trans ?_
  refine Eq.trans (step_lift ['B', 'G', 'O', 'R'] (?_ : loopRun (honest ['R', 'B', 'P', 'G']) 6 (some ['G', 'O', 'R', 'Y']) E65 [['B', 'G', 'O', 'R']] = (RunResult.solved ['R', 'B', 'P', 'G'] 4, [['G', 'O', 'R', 'Y'], ['O', 'B', 'P', 'G'], ['R', 'B', 'P', 'G']]))) rfl
  refine (loopRun_step ['R', 'B', 'P', 'G'] 6 5 ['G', 'O', 'R', 'Y'] E65 [['B', 'G', 'O', 'R']] 2 0 E123 ['O', 'B', 'P', 'G'] [['B', 'G', 'O', 'R'], ['G', 'O', 'R', 'Y']] rfl ((calc_eq_fastP ['R', 'B', 'P', 'G'] ['G', 'O', 'R', 'Y'] (by decide) (by decide)).trans (by decide)) (by decide) pe123 rfl nx123 (by decide) (by decide) (by decide)).trans ?_
  refine Eq.trans (step_lift ['G', 'O', 'R', 'Y'] (?_ : loopRun (honest ['R', 'B', 'P', 'G']) 5 (some ['O', 'B', 'P', 'G']) E123 [['B', 'G', 'O', 'R'], ['G', 'O', 'R', 'Y']] = (RunResult.solved ['R', 'B', 'P', 'G'] 4, [['O', 'B', 'P', 'G'], ['R', 'B', 'P', 'G']]))) rfl
  refine (loopRun_step ['R', 'B', 'P', 'G'] 5 4 ['O', 'B', 'P', 'G'] E123 [['B', 'G', 'O', 'R'], ['G', 'O', 'R', 'Y']] 0 3 [['R', 'B', 'P', 'G']] ['R', 'B', 'P', 'G'] [['B', 'G', 'O', 'R'], ['G', 'O', 'R', 'Y'], ['O', 'B', 'P', 'G']] rfl ((calc_eq_fastP ['R', 'B', 'P', 'G'] ['O', 'B', 'P', 'G'] (by decide) (by decide)).trans (by decide)) (by decide) pe191 rfl (findNextGuess_singleton ['R', 'B', 'P', 'G'] [['B', 'G', 'O', 'R'], ['G', 'O', 'R', 'Y'], ['O', 'B', 'P', 'G']]) (by decide) (by decide) (by decide)).trans ?_
  refine Eq.trans (step_lift ['O', 'B', 'P', 'G'] (?_ : loopRun (honest ['R', 'B', 'P', 'G']) 4 (some ['R', 'B', 'P', 'G']) [['R', 'B', 'P', 'G']] [['B', 'G', 'O', 'R'], ['G', 'O', 'R', 'Y'], ['O', 'B', 'P', 'G']] = (RunResult.solved ['R', 'B', 'P', 'G'] 4, [['R', 'B', 'P', 'G']]))) rfl
  exact loopRun_last ['R', 'B', 'P', 'G'] 4 3 [['R', 'B', 'P', 'G']] [['B', 'G', 'O', 'R'], ['G', 'O', 'R', 'Y'], ['O', 'B', 'P', 'G']] rfl rfl (by decide)

lemma rs190 : loopRun (honest ['R', 'B', 'P', 'O']) 7 none S0 [] =
    (RunResult.solved ['R', 'B', 'P', 'O'] 5, [['B', 'G', 'O', 'R'], ['G', 'O', 'R', 'Y'], ['O', 'B', 'P', 'G'], ['O', 'R', 'P', 'B'], ['R', 'B', 'P', 'O']]) := by
  refine (loopRun_none' (honest ['R', 'B', 'P', 'O']) 7 S0 []).trans ?_
  refine (loopRun_step ['R', 'B', 'P', 'O'] 7 6 ['B', 'G', 'O', 'R'] S0 [] 3 0 E65 ['G', 'O', 'R', 'Y'] [['B', 'G', 'O', 'R']] rfl ((calc_eq_fastP ['R', 'B', 'P', 'O'] ['B', 'G', 'O', 'R'] (by decide) (by decide)).trans (by decide)) (by decide) pe65 rfl nx65 (by decide) (by decide) (by decide)).trans ?_
  refine Eq.trans (step_lift ['B', 'G', 'O', 'R'] (?_ : loopRun (honest ['R', 'B', 'P', 'O']) 6 (some ['G', 'O', 'R', 'Y']) E65 [['B', 'G', 'O', 'R']] = (RunResult.solved ['R', 'B', 'P', 'O'] 5, [['G', 'O', 'R', 'Y'], ['O', 'B', 'P', 'G'], ['O', 'R', 'P', 'B'], ['R', 'B', 'P', 'O']]))) rfl
  refine (loopRun_step ['R', 'B', 'P', 'O'] 6 5 ['G', 'O', 'R', 'Y'] E65 [['B', 'G', 'O', 'R']] 2 0 E123 ['O', 'B', 'P', 'G'] [['B', 'G', 'O', 'R'], ['G', 'O', 'R', 'Y']] rfl ((calc_eq_fastP ['R', 'B', 'P', 'O'] ['G', 'O', 'R', 'Y'] (by decide) (by decide)).trans (by decide)) (by decide) pe123 rfl nx123 (by decide) (by decide) (by decide)).trans ?_
  refine Eq.trans (step_lift ['G', 'O', 'R', 'Y'] (?_ : loopRun (honest ['R', 'B', 'P', 'O']) 5 (some ['O', 'B', 'P', 'G']) E123 [['B', 'G', 'O', 'R'], ['G', 'O', 'R', 'Y']] = (RunResult.solved ['R', 'B', 'P', 'O'] 5, [['O', 'B', 'P', 'G'], ['O', 'R', 'P', 'B'], ['R', 'B', 'P', 'O']]))) rfl
  refine (loopRun_step ['R', 'B', 'P', 'O'] 5 4 ['O', 'B', 'P', 'G'] E123 [['B', 'G', 'O', 'R'], ['G', 'O', 'R', 'Y']] 1 2 E156 ['O', 'R', 'P', 'B'] [['B', 'G', 'O', 'R'], ['G', 'O', 'R', 'Y'], ['O', 'B', 'P', 'G']] rfl ((calc_eq_fastP ['R', 'B', 'P', 'O'] ['O', 'B', 'P', 'G'] (by decide) (by decide)).trans (by decide)) (by decide) pe156 rfl nx156 (by decide) (by decide) (by decide)).trans ?_
  refine Eq.trans (step_lift ['O', 'B', 'P', 'G'] (?_ : loopRun (honest ['R', 'B', 'P', 'O']) 4 (some ['O', 'R', 'P', 'B']) E156 [['B', 'G', 'O', 'R'], ['G', 'O', 'R', 'Y'], ['O', 'B', 'P', 'G']] = (RunResult.solved ['R', 'B', 'P', 'O'] 5, [['O', 'R', 'P', 'B'], ['R', 'B', 'P', 'O']]))) rfl
  refine (loopRun_step ['R', 'B', 'P', 'O'] 4 3 ['O', 'R', 'P', 'B'] E156 [['B', 'G', 'O', 'R'], ['G', 'O', 'R', 'Y'], ['O', 'B', 'P', 'G']] 3 1 [['R', 'B', 'P', 'O']] ['R', 'B', 'P', 'O'] [['B', 'G', 'O', 'R'], ['G', 'O', 'R', 'Y'], ['O', 'B', 'P', 'G'], ['O', 'R', 'P', 'B']] rfl ((calc_eq_fastP ['R', 'B', 'P', 'O'] ['O', 'R', 'P', 'B'] (by decide) (by decide)).trans (by decide)) (by decide) pe192 rfl (findNextGuess_singleton ['R', 'B', 'P', 'O'] [['B', 'G', 'O', 'R'], ['G', 'O', 'R', 'Y'], ['O', 'B', 'P', 'G'], ['O', 'R', 'P', 'B']]) (by decide) (by decide) (by decide)).trans ?_
  refine Eq.trans (step_lift ['O', 'R', 'P', 'B'] (?_ : loopRun (honest ['R', 'B', 'P', 'O']) 3 (some ['R', 'B', 'P', 'O']) [['R', 'B', 'P', 'O']] [['B', 'G', 'O', 'R'], ['G', 'O', 'R', 'Y'], ['O', 'B', 'P', 'G'], ['O', 'R', 'P', 'B']] = (RunResult.solved ['R', 'B', 'P', 'O'] 5, [['R', 'B', 'P', 'O']]))) rfl
  exact loopRun_last ['R', 'B', 'P', 'O'] 3 2 [['R', 'B', 'P', 'O']] [['B', 'G', 'O', 'R'], ['G', 'O', 'R', 'Y'], ['O', 'B', 'P', 'G'], ['O', 'R', 'P', 'B']] rfl rfl (by decide)

lemma rs191 : loopRun (honest ['R', 'B', 'P', 'Y']) 7 none S0 [] =
    (RunResult.solved ['R', 'B', 'P', 'Y'] 3, [['B', 'G', 'O', 'R'], ['G', 'Y', 'R', 'P'], ['R', 'B', 'P', 'Y']]) := by
  refine (loopRun_none' (honest ['R', 'B', 'P', 'Y']) 7 S0 []).trans ?_
  refine (loopRun_step ['R', 'B', 'P', 'Y'] 7 6 ['B', 'G', 'O', 'R'] S0 [] 2 0 E72 ['G', 'Y', 'R', 'P'] [['B', 'G', 'O', 'R']] rfl ((calc_eq_fastP ['R', 'B', 'P', 'Y'] ['B', 'G', 'O', 'R'] (by decide) (by decide)).trans (by decide)) (by decide) pe72 rfl nx72 (by decide) (by decide) (by decide)).trans ?_
  refine Eq.trans (step_lift ['B', 'G', 'O', 'R'] (?_ : loopRun (honest ['R', 'B', 'P', 'Y']) 6 (some ['G', 'Y', 'R', 'P']) E72 [['B', 'G', 'O', 'R']] = (RunResult.solved ['R', 'B', 'P', 'Y'] 3, [['G', 'Y', 'R', 'P'], ['R', 'B', 'P', 'Y']]))) rfl
  refine (loopRun_step ['R', 'B', 'P', 'Y'] 6 5 ['G', 'Y', 'R', 'P'] E72 [['B', 'G', 'O', 'R']] 3 0 E158 ['R', 'B', 'P', 'Y'] [['B', 'G', 'O', 'R'], ['G', 'Y', 'R', 'P']] rfl ((calc_eq_fastP ['R', 'B', 'P', 'Y'] ['G', 'Y', 'R', 'P'] (by decide) (by decide)).trans (by decide)) (by decide) pe158 rfl nx158 (by decide) (by decide) (by decide)).trans ?_
  refine Eq.trans (step_lift ['G', 'Y', 'R', 'P'] (?_ : loopRun (honest ['R', 'B', 'P', 'Y']) 5 (some ['R', 'B', 'P', 'Y']) E158 [['B', 'G', 'O', 'R'], ['G', 'Y', 'R', 'P']] = (RunResult.solved ['R', 'B', 'P', 'Y'] 3, [['R', 'B', 'P', 'Y']]))) rfl
  exact loopRun_last ['R', 'B', 'P', 'Y'] 5 4 E158 [['B', 'G', 'O', 'R'], ['G', 'Y', 'R', 'P']] rfl rfl (by decide)

lemma rs192 : loopRun (honest ['R', 'G', 'B', 'O']) 7 none S0 [] =
    (RunResult.solved ['R', 'G', 'B', 'O'] 5, [['B', 'G', 'O', 'R'], ['B', 'O', 'R', 'G'], ['G', 'R', 'O', 'B'], ['O', 'B', 'G', 'R'], ['R', 'G', 'B', 'O']]) := by
  refine (loopRun_none' (honest ['R', 'G', 'B', 'O']) 7 S0 []).trans ?_
  refine (loopRun_step ['R', 'G', 'B', 'O'] 7 6 ['B', 'G', 'O', 'R'] S0 [] 3 1 E16 ['B', 'O', 'R', 'G'] [['B', 'G', 'O', 'R']] rfl ((calc_eq_fastP ['R', 'G', 'B', 'O'] ['B', 'G', 'O', 'R'] (by decide) (by decide)).trans (by decide)) (by decide) pe16 rfl nx16 (by decide) (by decide) (by decide)).trans ?_
  refine Eq.trans (step_lift ['B', 'G', 'O', 'R'] (?_ : loopRun (honest ['R', 'G', 'B', 'O']) 6 (some ['B', 'O', 'R', 'G']) E16 [['B', 'G', 'O', 'R']] = (RunResult.solved ['R', 'G', 'B', 'O'] 5, [['B', 'O', 'R', 'G'], ['G', 'R', 'O', 'B'], ['O', 'B', 'G', 'R'], ['R', 'G', 'B', 'O']]))) rfl
  refine (loopRun_step ['R', 'G', 'B', 'O'] 6 5 ['B', 'O', 'R', 'G'] E16 [['B', 'G', 'O', 'R']] 4 0 E92 ['G', 'R', 'O', 'B'] [['B', 'G', 'O', 'R'], ['B', 'O', 'R', 'G']] rfl ((calc_eq_fastP ['R', 'G', 'B', 'O'] ['B', 'O', 'R', 'G'] (by decide) (by decide)).trans (by decide)) (by decide) pe92 rfl nx92 (by decide) (by decide) (by decide)).trans ?_
  refine Eq.trans (step_lift ['B', 'O', 'R', 'G'] (?_ : loopRun (honest ['R', 'G', 'B', 'O']) 5 (some ['G', 'R', 'O', 'B']) E92 [['B', 'G', 'O', 'R'], ['B', 'O', 'R', 'G']] = (RunResult.solved ['R', 'G', 'B', 'O'] 5, [['G', 'R', 'O', 'B'], ['O', 'B', 'G', 'R'], ['R', 'G', 'B', 'O']]))) rfl
  refine (loopRun_step ['R', 'G', 'B', 'O'] 5 4 ['G', 'R', 'O', 'B'] E92 [['B', 'G', 'O', 'R'], ['B', 'O', 'R', 'G']] 4 0 E121 ['O', 'B', 'G', 'R'] [['B', 'G', 'O', 'R'], ['B', 'O', 'R', 'G'], ['G', 'R', 'O', 'B']] rfl ((calc_eq_fastP ['R', 'G', 'B', 'O'] ['G', 'R', 'O', 'B'] (by decide) (by decide)).trans (by decide)) (by decide) pe121 rfl nx121 (by decide) (by decide) (by decide)).trans ?_
  refine Eq.trans (step_lift ['G', 'R', 'O', 'B'] (?_ : loopRun (honest ['R', 'G', 'B', 'O']) 4 (some ['O', 'B', 'G', 'R']) E121 [['B', 'G', 'O', 'R'], ['B', 'O', 'R', 'G'], ['G', 'R', 'O', 'B']] = (RunResult.solved ['R', 'G', 'B', 'O'] 5, [['O', 'B', 'G', 'R'], ['R', 'G', 'B', 'O']]))) rfl
  refine (loopRun_step ['R', 'G', 'B', 'O'] 4 3 ['O', 'B', 'G', 'R'] E121 [['B', 'G', 'O', 'R'], ['B', 'O', 'R', 'G'], ['G', 'R', 'O', 'B']] 4 0 [['R', 'G', 'B', 'O']] ['R', 'G', 'B', 'O'] [['B', 'G', 'O', 'R'], ['B', 'O', 'R', 'G'], ['G', 'R', 'O', 'B'], ['O', 'B', 'G', 'R']] rfl ((calc_eq_fastP ['R', 'G', 'B', 'O'] ['O', 'B', 'G', 'R'] (by decide) (by decide)).trans (by decide)) (by decide) pe193 rfl (findNextGuess_singleton ['R', 'G', 'B', 'O'] [['B', 'G', 'O', 'R'], ['B', 'O', 'R', 'G'], ['G', 'R', 'O', 'B'], ['O', 'B', 'G', 'R']]) (by decide) (by decide) (by decide)).trans ?_
  refine Eq.trans (step_lift ['O', 'B', 'G', 'R'] (?_ : loopRun (honest ['R', 'G', 'B', 'O']) 3 (some ['R', 'G', 'B', 'O']) [['R', 'G', 'B', 'O']] [['B', 'G', 'O', 'R'], ['B', 'O', 'R', 'G'], ['G', 'R', 'O', 'B'], ['O', 'B', 'G', 'R']] = (RunResult.solved ['R', 'G', 'B', 'O'] 5, [['R', 'G', 'B', 'O']]))) rfl
  exact loopRun_last ['R', 'G', 'B', 'O'] 3 2 [['R', 'G', 'B', 'O']] [['B', 'G', 'O', 'R'], ['B', 'O', 'R', 'G'], ['G', 'R', 'O', 'B'], ['O', 'B', 'G', 'R']] rfl rfl (by decide)

lemma rs193 : loopRun (honest ['R', 'G', 'B', 'Y']) 7 none S0 [] =
    (RunResult.solved ['R', 'G', 'B', 'Y'] 5, [['B', 'G', 'O', 'R'], ['B', 'O', 'R', 'Y'], ['G', 'R', 'O', 'Y'], ['B', 'R', 'Y', 'G'], ['R', 'G', 'B', 'Y']]) := by
  refine (loopRun_none' (honest ['R', 'G', 'B', 'Y']) 7 S0 []).trans ?_
  refine (loopRun_step ['R', 'G', 'B', 'Y'] 7 6 ['B', 'G', 'O', 'R'] S0 [] 2 1 E13 ['B', 'O', 'R', 'Y'] [['B', 'G', 'O', 'R']] rfl ((calc_eq_fastP ['R', 'G', 'B', 'Y'] ['B', 'G', 'O', 'R'] (by decide) (by decide)).trans (by decide)) (by decide) pe13 rfl nx13 (by decide) (by decide) (by decide)).trans ?_
  refine Eq.trans (step_lift ['B', 'G', 'O', 'R'] (?_ : loopRun (honest ['R', 'G', 'B', 'Y']) 6 (some ['B', 'O', 'R', 'Y']) E13 [['B', 'G', 'O', 'R']] = (RunResult.solved ['R', 'G', 'B', 'Y'] 5, [['B', 'O', 'R', 'Y'], ['G', 'R', 'O', 'Y'], ['B', 'R', 'Y', 'G'], ['R', 'G', 'B', 'Y']]))) rfl
  refine (loopRun_step ['R', 'G', 'B', 'Y'] 6 5 ['B', 'O', 'R', 'Y'] E13 [['B', 'G', 'O', 'R']] 2 1 E29 ['G', 'R', 'O', 'Y'] [['B', 'G', 'O', 'R'], ['B', 'O', 'R', 'Y']] rfl ((calc_eq_fastP ['R', 'G', 'B', 'Y'] ['B', 'O', 'R', 'Y'] (by decide) (by decide)).trans (by decide)) (by decide) pe29 rfl nx29 (by decide) (by decide) (by decide)).trans ?_
  refine Eq.trans (step_lift ['B', 'O', 'R', 'Y'] (?_ : loopRun (honest ['R', 'G', 'B', 'Y']) 5 (some ['G', 'R', 'O', 'Y']) E29 [['B', 'G', 'O', 'R'], ['B', 'O', 'R', 'Y']] = (RunResult.solved ['R', 'G', 'B', 'Y'] 5, [['G', 'R', 'O', 'Y'], ['B', 'R', 'Y', 'G'], ['R', 'G', 'B', 'Y']]))) rfl
  refine (loopRun_step ['R', 'G', 'B', 'Y'] 5 4 ['G', 'R', 'O', 'Y'] E29 [['B', 'G', 'O', 'R'], ['B', 'O', 'R', 'Y']] 2 1 E30 ['B', 'R', 'Y', 'G'] [['B', 'G', 'O', 'R'], ['B', 'O', 'R', 'Y'], ['G', 'R', 'O', 'Y']] rfl ((calc_eq_fastP ['R', 'G', 'B', 'Y'] ['G', 'R', 'O', 'Y'] (by decide) (by decide)).trans (by decide)) (by decide) pe30 rfl nx30 (by decide) (by decide) (by decide)).trans ?_
  refine Eq.trans (step_lift ['G', 'R', 'O', 'Y'] (?_ : loopRun (honest ['R', 'G', 'B', 'Y']) 4 (some ['B', 'R', 'Y', 'G']) E30 [['B', 'G', 'O', 'R'], ['B', 'O', 'R', 'Y'], ['G', 'R', 'O', 'Y']] = (RunResult.solved ['R', 'G', 'B', 'Y'] 5, [['B', 'R', 'Y', 'G'], ['R', 'G', 'B', 'Y']]))) rfl
  refine (loopRun_step ['R', 'G', 'B', 'Y'] 4 3 ['B', 'R', 'Y', 'G'] E30 [['B', 'G', 'O', 'R'], ['B', 'O', 'R', 'Y'], ['G', 'R', 'O', 'Y']] 4 0 [['R', 'G', 'B', 'Y']] ['R', 'G', 'B', 'Y'] [['B', 'G', 'O', 'R'], ['B', 'O', 'R', 'Y'], ['G', 'R', 'O', 'Y'], ['B', 'R', 'Y', 'G']] rfl ((calc_eq_fastP ['R', 'G', 'B', 'Y'] ['B', 'R', 'Y', 'G'] (by decide) (by decide)).trans (by decide)) (by decide) pe194 rfl (findNextGuess_singleton ['R', 'G', 'B', 'Y'] [['B', 'G', 'O', 'R'], ['B', 'O', 'R', 'Y'], ['G', 'R', 'O', 'Y'], ['B', 'R', 'Y', 'G']]) (by decide) (by decide) (by decide)).trans ?_
  refine Eq.trans (step_lift ['B', 'R', 'Y', 'G'] (?_ : loopRun (honest ['R', 'G', 'B', 'Y']) 3 (some ['R', 'G', 'B', 'Y']) [['R', 'G', 'B', 'Y']] [['B', 'G', 'O', 'R'], ['B', 'O', 'R', 'Y'], ['G', 'R', 'O', 'Y'], ['B', 'R', 'Y', 'G']] = (RunResult.solved ['R', 'G', 'B', 'Y'] 5, [['R', 'G', 'B', 'Y']]))) rfl
  exact loopRun_last ['R', 'G', 'B', 'Y'] 3 2 [['R', 'G', 'B', 'Y']] [['B', 'G', 'O', 'R'], ['B', 'O', 'R', 'Y'], ['G', 'R', 'O', 'Y'], ['B', 'R', 'Y', 'G']] rfl rfl (by decide)

lemma rs194 : loopRun (honest ['R', 'G', 'B', 'P']) 7 none S0 [] =
    (RunResult.solved ['R', 'G', 'B', 'P'] 4, [['B', 'G', 'O', 'R'], ['B', 'O', 'R', 'Y'], ['G', 'P', 'O', 'B'], ['R', 'G', 'B', 'P']]) := by
  refine (loopRun_none' (honest ['R', 'G', 'B', 'P']) 7 S0 []).trans ?_
  refine (loopRun_step ['R', 'G', 'B', 'P'] 7 6 ['B', 'G', 'O', 'R'] S0 [] 2 1 E13 ['B', 'O', 'R', 'Y'] [['B', 'G', 'O', 'R']] rfl ((calc_eq_fastP ['R', 'G', 'B', 'P'] ['B', 'G', 'O', 'R'] (by decide) (by decide)).trans (by decide)) (by decide) pe13 rfl nx13 (by decide) (by decide) (by decide)).trans ?_
  refine Eq.trans (step_lift ['B', 'G', 'O', 'R'] (?_ : loopRun (honest ['R', 'G', 'B', 'P']) 6 (some ['B', 'O', 'R', 'Y']) E13 [['B', 'G', 'O', 'R']] = (RunResult.solved ['R', 'G', 'B', 'P'] 4, [['B', 'O', 'R', 'Y'], ['G', 'P', 'O', 'B'], ['R', 'G', 'B', 'P']]))) rfl
  refine (loopRun_step ['R', 'G', 'B', 'P'] 6 5 ['B', 'O', 'R', 'Y'] E13 [['B', 'G', 'O', 'R']] 2 0 E62 ['G', 'P', 'O', 'B'] [['B', 'G', 'O', 'R'], ['B', 'O', 'R', 'Y']] rfl ((calc_eq_fastP ['R', 'G', 'B', 'P'] ['B', 'O', 'R', 'Y'] (by decide) (by decide)).trans (by decide)) (by decide) pe62 rfl nx62 (by decide) (by decide) (by decide)).trans ?_
  refine Eq.trans (step_lift ['B', 'O', 'R', 'Y'] (?_ : loopRun (honest ['R', 'G', 'B', 'P']) 5 (some ['G', 'P', 'O', 'B']) E62 [['B', 'G', 'O', 'R'], ['B', 'O', 'R', 'Y']] = (RunResult.solved ['R', 'G', 'B', 'P'] 4, [['G', 'P', 'O', 'B'], ['R', 'G', 'B', 'P']]))) rfl
  refine (loopRun_step ['R', 'G', 'B', 'P'] 5 4 ['G', 'P', 'O', 'B'] E62 [['B', 'G', 'O', 'R'], ['B', 'O', 'R', 'Y']] 3 0 E195 ['R', 'G', 'B', 'P'] [['B', 'G', 'O', 'R'], ['B', 'O', 'R', 'Y'], ['G', 'P', 'O', 'B']] rfl ((calc_eq_fastP ['R', 'G', 'B', 'P'] ['G', 'P', 'O', 'B'] (by decide) (by decide)).trans (by decide)) (by decide) pe195 rfl nx195 (by decide) (by decide) (by decide)).trans ?_
  refine Eq.trans (step_lift ['G', 'P', 'O', 'B'] (?_ : loopRun (honest ['R', 'G', 'B', 'P']) 4 (some ['R', 'G', 'B', 'P']) E195 [['B', 'G', 'O', 'R'], ['B', 'O', 'R', 'Y'], ['G', 'P', 'O', 'B']] = (RunResult.solved ['R', 'G', 'B', 'P'] 4, [['R', 'G', 'B', 'P']]))) rfl
  exact loopRun_last ['R', 'G', 'B', 'P'] 4 3 E195 [['B', 'G', 'O', 'R'], ['B', 'O', 'R', 'Y'], ['G', 'P', 'O', 'B']] rfl rfl (by decide)

lemma rs195 : loopRun (honest ['R', 'G', 'O', 'B']) 7 none S0 [] =
    (RunResult.solved ['R', 'G', 'O', 'B'] 4, [['B', 'G', 'O', 'R'], ['B', 'G', 'R', 'O'], ['B', 'O', 'G', 'R'], ['R', 'G', 'O', 'B']]) := by
  refine (loopRun_none' (honest ['R', 'G', 'O', 'B']) 7 S0 []).trans ?_
  refine (loopRun_step ['R', 'G', 'O', 'B'] 7 6 ['B', 'G', 'O', 'R'] S0 [] 2 2 E2 ['B', 'G', 'R', 'O'] [['B', 'G', 'O', 'R']] rfl ((calc_eq_fastP ['R', 'G', 'O', 'B'] ['B', 'G', 'O', 'R'] (by decide) (by decide)).trans (by decide)) (by decide) pe2 rfl nx2 (by decide) (by decide) (by decide)).trans ?_
  refine Eq.trans (step_lift ['B', 'G', 'O', 'R'] (?_ : loopRun (honest ['R', 'G', 'O', 'B']) 6 (some ['B', 'G', 'R', 'O']) E2 [['B', 'G', 'O', 'R']] = (RunResult.solved ['R', 'G', 'O', 'B'] 4, [['B', 'G', 'R', 'O'], ['B', 'O', 'G', 'R'], ['R', 'G', 'O', 'B']]))) rfl
  refine (loopRun_step ['R', 'G', 'O', 'B'] 6 5 ['B', 'G', 'R', 'O'] E2 [['B', 'G', 'O', 'R']] 3 1 E12 ['B', 'O', 'G', 'R'] [['B', 'G', 'O', 'R'], ['B', 'G', 'R', 'O']] rfl ((calc_eq_fastP ['R', 'G', 'O', 'B'] ['B', 'G', 'R', 'O'] (by decide) (by decide)).trans (by decide)) (by decide) pe12 rfl nx12 (by decide) (by decide) (by decide)).trans ?_
  refine Eq.trans (step_lift ['B', 'G', 'R', 'O'] (?_ : loopRun (honest ['R', 'G', 'O', 'B']) 5 (some ['B', 'O', 'G', 'R']) E12 [['B', 'G', 'O', 'R'], ['B', 'G', 'R', 'O']] = (RunResult.solved ['R', 'G', 'O', 'B'] 4, [['B', 'O', 'G', 'R'], ['R', 'G', 'O', 'B']]))) rfl
  refine (loopRun_step ['R', 'G', 'O', 'B'] 5 4 ['B', 'O', 'G', 'R'] E12 [['B', 'G', 'O', 'R'], ['B', 'G', 'R', 'O']] 4 0 [['R', 'G', 'O', 'B']] ['R', 'G', 'O', 'B'] [['B', 'G', 'O', 'R'], ['B', 'G', 'R', 'O'], ['B', 'O', 'G', 'R']] rfl ((calc_eq_fastP ['R', 'G', 'O', 'B'] ['B', 'O', 'G', 'R'] (by decide) (by decide)).trans (by decide)) (by decide) pe196 rfl (findNextGuess_singleton ['R', 'G', 'O', 'B'] [['B', 'G', 'O', 'R'], ['B', 'G', 'R', 'O'], ['B', 'O', 'G', 'R']]) (by decide) (by decide) (by decide)).trans ?_
  refine Eq.trans (step_lift ['B', 'O', 'G', 'R'] (?_ : loopRun (honest ['R', 'G', 'O', 'B']) 4 (some ['R', 'G', 'O', 'B']) [['R', 'G', 'O', 'B']] [['B', 'G', 'O', 'R'], ['B', 'G', 'R', 'O'], ['B', 'O', 'G', 'R']] = (RunResult.solved ['R', 'G', 'O', 'B'] 4, [['R', 'G', 'O', 'B']]))) rfl
  exact loopRun_last ['R', 'G', 'O', 'B'] 4 3 [['R', 'G', 'O', 'B']] [['B', 'G', 'O', 'R'], ['B', 'G', 'R', 'O'], ['B', 'O', 'G', 'R']] rfl rfl (by decide)

lemma rs196 : loopRun (honest ['R', 'G', 'O', 'Y']) 7 none S0 [] =
    (RunResult.solved ['R', 'G', 'O', 'Y'] 4, [['B', 'G', 'O', 'R'], ['B', 'G', 'R', 'Y'], ['B', 'R', 'O', 'Y'], ['R', 'G', 'O', 'Y']]) := by
  refine (loopRun_none' (honest ['R', 'G', 'O', 'Y']) 7 S0 []).trans ?_
  refine (loopRun_step ['R', 'G', 'O', 'Y'] 7 6 ['B', 'G', 'O', 'R'] S0 [] 1 2 E3 ['B', 'G', 'R', 'Y'] [['B', 'G', 'O', 'R']] rfl ((calc_eq_fastP ['R', 'G', 'O', 'Y'] ['B', 'G', 'O', 'R'] (by decide) (by decide)).trans (by decide)) (by decide) pe3 rfl nx3 (by decide) (by decide) (by decide)).trans ?_
  refine Eq.trans (step_lift ['B', 'G', 'O', 'R'] (?_ : loopRun (honest ['R', 'G', 'O', 'Y']) 6 (some ['B', 'G', 'R', 'Y']) E3 [['B', 'G', 'O', 'R']] = (RunResult.solved ['R', 'G', 'O', 'Y'] 4, [['B', 'G', 'R', 'Y'], ['B', 'R', 'O', 'Y'], ['R', 'G', 'O', 'Y']]))) rfl
  refine (loopRun_step ['R', 'G', 'O', 'Y'] 6 5 ['B', 'G', 'R', 'Y'] E3 [['B', 'G', 'O', 'R']] 1 2 E5 ['B', 'R', 'O', 'Y'] [['B', 'G', 'O', 'R'], ['B', 'G', 'R', 'Y']] rfl ((calc_eq_fastP ['R', 'G', 'O', 'Y'] ['B', 'G', 'R', 'Y'] (by decide) (by decide)).trans (by decide)) (by decide) pe5 rfl nx5 (by decide) (by decide) (by decide)).trans ?_
  refine Eq.trans (step_lift ['B', 'G', 'R', 'Y'] (?_ : loopRun (honest ['R', 'G', 'O', 'Y']) 5 (some ['B', 'R', 'O', 'Y']) E5 [['B', 'G', 'O', 'R'], ['B', 'G', 'R', 'Y']] = (RunResult.solved ['R', 'G', 'O', 'Y'] 4, [['B', 'R', 'O', 'Y'], ['R', 'G', 'O', 'Y']]))) rfl
  refine (loopRun_step ['R', 'G', 'O', 'Y'] 5 4 ['B', 'R', 'O', 'Y'] E5 [['B', 'G', 'O', 'R'], ['B', 'G', 'R', 'Y']] 1 2 [['R', 'G', 'O', 'Y']] ['R', 'G', 'O', 'Y'] [['B', 'G', 'O', 'R'], ['B', 'G', 'R', 'Y'], ['B', 'R', 'O', 'Y']] rfl ((calc_eq_fastP ['R', 'G', 'O', 'Y'] ['B', 'R', 'O', 'Y'] (by decide) (by decide)).trans (by decide)) (by decide) pe197 rfl (findNextGuess_singleton ['R', 'G', 'O', 'Y'] [['B', 'G', 'O', 'R'], ['B', 'G', 'R', 'Y'], ['B', 'R', 'O', 'Y']]) (by decide) (by decide) (by decide)).trans ?_
  refine Eq.trans (step_lift ['B', 'R', 'O', 'Y'] (?_ : loopRun (honest ['R', 'G', 'O', 'Y']) 4 (some ['R', 'G', 'O', 'Y']) [['R', 'G', 'O', 'Y']] [['B', 'G', 'O', 'R'], ['B', 'G', 'R', 'Y'], ['B', 'R', 'O', 'Y']] = (RunResult.solved ['R', 'G', 'O', 'Y'] 4, [['R', 'G', 'O', 'Y']]))) rfl
  exact loopRun_last ['R', 'G', 'O', 'Y'] 4 3 [['R', 'G', 'O', 'Y']] [['B', 'G', 'O', 'R'], ['B', 'G', 'R', 'Y'], ['B', 'R', 'O', 'Y']] rfl rfl (by decide)

lemma rs197 : loopRun (honest ['R', 'G', 'O', 'P']) 7 none S0 [] =
    (RunResult.solved ['R', 'G', 'O', 'P'] 4, [['B', 'G', 'O', 'R'], ['B', 'G', 'R', 'Y'], ['B', 'O', 'P', 'R'], ['R', 'G', 'O', 'P']]) := by
  refine (loopRun_none' (honest ['R', 'G', 'O', 'P']) 7 S0 []).trans ?_
  refine (loopRun_step ['R', 'G', 'O', 'P'] 7 6 ['B', 'G', 'O', 'R'] S0 [] 1 2 E3 ['B', 'G', 'R', 'Y'] [['B', 'G', 'O', 'R']] rfl ((calc_eq_fastP ['R', 'G', 'O', 'P'] ['B', 'G', 'O', 'R'] (by decide) (by decide)).trans (by decide)) (by decide) pe3 rfl nx3 (by decide) (by decide) (by decide)).trans ?_
  refine Eq.trans (step_lift ['B', 'G', 'O', 'R'] (?_ : loopRun (honest ['R', 'G', 'O', 'P']) 6 (some ['B', 'G', 'R', 'Y']) E3 [['B', 'G', 'O', 'R']] = (RunResult.solved ['R', 'G', 'O', 'P'] 4, [['B', 'G', 'R', 'Y'], ['B', 'O', 'P', 'R'], ['R', 'G', 'O', 'P']]))) rfl
  refine (loopRun_step ['R', 'G', 'O', 'P'] 6 5 ['B', 'G', 'R', 'Y'] E3 [['B', 'G', 'O', 'R']] 1 1 E22 ['B', 'O', 'P', 'R'] [['B', 'G', 'O', 'R'], ['B', 'G', 'R', 'Y']] rfl ((calc_eq_fastP ['R', 'G', 'O', 'P'] ['B', 'G', 'R', 'Y'] (by decide) (by decide)).trans (by decide)) (by decide) pe22 rfl nx22 (by decide) (by decide) (by decide)).trans ?_
  refine Eq.trans (step_lift ['B', 'G', 'R', 'Y'] (?_ : loopRun (honest ['R', 'G', 'O', 'P']) 5 (some ['B', 'O', 'P', 'R']) E22 [['B', 'G', 'O', 'R'], ['B', 'G', 'R', 'Y']] = (RunResult.solved ['R', 'G', 'O', 'P'] 4, [['B', 'O', 'P', 'R'], ['R', 'G', 'O', 'P']]))) rfl
  refine (loopRun_step ['R', 'G', 'O', 'P'] 5 4 ['B', 'O', 'P', 'R'] E22 [['B', 'G', 'O', 'R'], ['B', 'G', 'R', 'Y']] 3 0 E198 ['R', 'G', 'O', 'P'] [['B', 'G', 'O', 'R'], ['B', 'G', 'R', 'Y'], ['B', 'O', 'P', 'R']] rfl ((calc_eq_fastP ['R', 'G', 'O', 'P'] ['B', 'O', 'P', 'R'] (by decide) (by decide)).trans (by decide)) (by decide) pe198 rfl nx198 (by decide) (by decide) (by decide)).trans ?_
  refine Eq.trans (step_lift ['B', 'O', 'P', 'R'] (?_ : loopRun (honest ['R', 'G', 'O', 'P']) 4 (some ['R', 'G', 'O', 'P']) E198 [['B', 'G', 'O', 'R'], ['B', 'G', 'R', 'Y'], ['B', 'O', 'P', 'R']] = (RunResult.solved ['R', 'G', 'O', 'P'] 4, [['R', 'G', 'O', 'P']]))) rfl
  exact loopRun_last ['R', 'G', 'O', 'P'] 4 3 E198 [['B', 'G', 'O', 'R'], ['B', 'G', 'R', 'Y'], ['B', 'O', 'P', 'R']] rfl rfl (by decide)

lemma rs198 : loopRun (honest ['R', 'G', 'Y', 'B']) 7 none S0 [] =
    (RunResult.solved ['R', 'G', 'Y', 'B'] 4, [['B', 'G', 'O', 'R'], ['B', 'O', 'R', 'Y'], ['O', 'Y', 'G', 'R'], ['R', 'G', 'Y', 'B']]) := by
  refine (loopRun_none' (honest ['R', 'G', 'Y', 'B']) 7 S0 []).trans ?_
  refine (loopRun_step ['R', 'G', 'Y', 'B'] 7 6 ['B', 'G', 'O', 'R'] S0 [] 2 1 E13 ['B', 'O', 'R', 'Y'] [['B', 'G', 'O', 'R']] rfl ((calc_eq_fastP ['R', 'G', 'Y', 'B'] ['B', 'G', 'O', 'R'] (by decide) (by decide)).trans (by decide)) (by decide) pe13 rfl nx13 (by decide) (by decide) (by decide)).trans ?_
  refine Eq.trans (step_lift ['B', 'G', 'O', 'R'] (?_ : loopRun (honest ['R', 'G', 'Y', 'B']) 6 (some ['B', 'O', 'R', 'Y']) E13 [['B', 'G', 'O', 'R']] = (RunResult.solved ['R', 'G', 'Y', 'B'] 4, [['B', 'O', 'R', 'Y'], ['O', 'Y', 'G', 'R'], ['R', 'G', 'Y', 'B']]))) rfl
  refine (loopRun_step ['R', 'G', 'Y', 'B'] 6 5 ['B', 'O', 'R', 'Y'] E13 [['B', 'G', 'O', 'R']] 3 0 E69 ['O', 'Y', 'G', 'R'] [['B', 'G', 'O', 'R'], ['B', 'O', 'R', 'Y']] rfl ((calc_eq_fastP ['R', 'G', 'Y', 'B'] ['B', 'O', 'R', 'Y'] (by decide) (by decide)).trans (by decide)) (by decide) pe69 rfl nx69 (by decide) (by decide) (by decide)).trans ?_
  refine Eq.trans (step_lift ['B', 'O', 'R', 'Y'] (?_ : loopRun (honest ['R', 'G', 'Y', 'B']) 5 (some ['O', 'Y', 'G', 'R']) E69 [['B', 'G', 'O', 'R'], ['B', 'O', 'R', 'Y']] = (RunResult.solved ['R', 'G', 'Y', 'B'] 4, [['O', 'Y', 'G', 'R'], ['R', 'G', 'Y', 'B']]))) rfl
  refine (loopRun_step ['R', 'G', 'Y', 'B'] 5 4 ['O', 'Y', 'G', 'R'] E69 [['B', 'G', 'O', 'R'], ['B', 'O', 'R', 'Y']] 3 0 E199 ['R', 'G', 'Y', 'B'] [['B', 'G', 'O', 'R'], ['B', 'O', 'R', 'Y'], ['O', 'Y', 'G', 'R']] rfl ((calc_eq_fastP ['R', 'G', 'Y', 'B'] ['O', 'Y', 'G', 'R'] (by decide) (by decide)).trans (by decide)) (by decide) pe199 rfl nx199 (by decide) (by decide) (by decide)).trans ?_
  refine Eq.trans (step_lift ['O', 'Y', 'G', 'R'] (?_ : loopRun (honest ['R', 'G', 'Y', 'B']) 4 (some ['R', 'G', 'Y', 'B']) E199 [['B', 'G', 'O', 'R'], ['B', 'O', 'R', 'Y'], ['O', 'Y', 'G', 'R']] = (RunResult.solved ['R', 'G', 'Y', 'B'] 4, [['R', 'G', 'Y', 'B']]))) rfl
  exact loopRun_last ['R', 'G', 'Y', 'B'] 4 3 E199 [['B', 'G', 'O', 'R'], ['B', 'O', 'R', 'Y'], ['O', 'Y', 'G', 'R']] rfl rfl (by decide)

lemma rs199 : loopRun (honest ['R', 'G', 'Y', 'O']) 7 none S0 [] =
    (RunResult.solved ['R', 'G', 'Y', 'O'] 4, [['B', 'G', 'O', 'R'], ['B', 'O', 'R', 'Y'], ['O', 'Y', 'G', 'R'], ['R', 'G', 'Y', 'O']]) := by
  refine (loopRun_none' (honest ['R', 'G', 'Y', 'O']) 7 S0 []).trans ?_
  refine (loopRun_step ['R', 'G', 'Y', 'O'] 7 6 ['B', 'G', 'O', 'R'] S0 [] 2 1 E13 ['B', 'O', 'R', 'Y'] [['B', 'G', 'O', 'R']] rfl ((calc_eq_fastP ['R', 'G', 'Y', 'O'] ['B', 'G', 'O', 'R'] (by decide) (by decide)).trans (by decide)) (by decide) pe13 rfl nx13 (by decide) (by decide) (by decide)).trans ?_
  refine Eq.trans (step_lift ['B', 'G', 'O', 'R'] (?_ : loopRun (honest ['R', 'G', 'Y', 'O']) 6 (some ['B', 'O', 'R', 'Y']) E13 [['B', 'G', 'O', 'R']] = (RunResult.solved ['R', 'G', 'Y', 'O'] 4, [['B', 'O', 'R', 'Y'], ['O', 'Y', 'G', 'R'], ['R', 'G', 'Y', 'O']]))) rfl
  refine (loopRun_step ['R', 'G', 'Y', 'O'] 6 5 ['B', 'O', 'R', 'Y'] E13 [['B', 'G', 'O', 'R']] 3 0 E69 ['O', 'Y', 'G', 'R'] [['B', 'G', 'O', 'R'], ['B', 'O', 'R', 'Y']] rfl ((calc_eq_fastP ['R', 'G', 'Y', 'O'] ['B', 'O', 'R', 'Y'] (by decide) (by decide)).trans (by decide)) (by decide) pe69 rfl nx69 (by decide) (by decide) (by decide)).trans ?_
  refine Eq.trans (step_lift ['B', 'O', 'R', 'Y'] (?_ : loopRun (honest ['R', 'G', 'Y', 'O']) 5 (some ['O', 'Y', 'G', 'R']) E69 [['B', 'G', 'O', 'R'], ['B', 'O', 'R', 'Y']] = (RunResult.solved ['R', 'G', 'Y', 'O'] 4, [['O', 'Y', 'G', 'R'], ['R', 'G', 'Y', 'O']]))) rfl
  refine (loopRun_step ['R', 'G', 'Y', 'O'] 5 4 ['O', 'Y', 'G', 'R'] E69 [['B', 'G', 'O', 'R'], ['B', 'O', 'R', 'Y']] 4 0 E200 ['R', 'G', 'Y', 'O'] [['B', 'G', 'O', 'R'], ['B', 'O', 'R', 'Y'], ['O', 'Y', 'G', 'R']] rfl ((calc_eq_fastP ['R', 'G', 'Y', 'O'] ['O', 'Y', 'G', 'R'] (by decide) (by decide)).trans (by decide)) (by decide) pe200 rfl nx200 (by decide) (by decide) (by decide)).trans ?_
  refine Eq.trans (step_lift ['O', 'Y', 'G', 'R'] (?_ : loopRun (honest ['R', 'G', 'Y', 'O']) 4 (some ['R', 'G', 'Y', 'O']) E200 [['B', 'G', 'O', 'R'], ['B', 'O', 'R', 'Y'], ['O', 'Y', 'G', 'R']] = (RunResult.solved ['R', 'G', 'Y', 'O'] 4, [['R', 'G', 'Y', 'O']]))) rfl
  exact loopRun_last ['R', 'G', 'Y', 'O'] 4 3 E200 [['B', 'G', 'O', 'R'], ['B', 'O', 'R', 'Y'], ['O', 'Y', 'G', 'R']] rfl rfl (by decide)

lemma rs200 : loopRun (honest ['R', 'G', 'Y', 'P']) 7 none S0 [] =
    (RunResult.solved ['R', 'G', 'Y', 'P'] 3, [['B', 'G', 'O', 'R'], ['B', 'O', 'Y', 'P'], ['R', 'G', 'Y', 'P']]) := by
  refine (loopRun_none' (honest ['R', 'G', 'Y', 'P']) 7 S0 []).trans ?_
  refine (loopRun_step ['R', 'G', 'Y', 'P'] 7 6 ['B', 'G', 'O', 'R'] S0 [] 1 1 E20 ['B', 'O', 'Y', 'P'] [['B', 'G', 'O', 'R']] rfl ((calc_eq_fastP ['R', 'G', 'Y', 'P'] ['B', 'G', 'O', 'R'] (by decide) (by decide)).trans (by decide)) (by decide) pe20 rfl nx20 (by decide) (by decide) (by decide)).trans ?_
  refine Eq.trans (step_lift ['B', 'G', 'O', 'R'] (?_ : loopRun (honest ['R', 'G', 'Y', 'P']) 6 (some ['B', 'O', 'Y', 'P']) E20 [['B', 'G', 'O', 'R']] = (RunResult.solved ['R', 'G', 'Y', 'P'] 3, [['B', 'O', 'Y', 'P'], ['R', 'G', 'Y', 'P']]))) rfl
  refine (loopRun_step ['R', 'G', 'Y', 'P'] 6 5 ['B', 'O', 'Y', 'P'] E20 [['B', 'G', 'O', 'R']] 0 2 [['R', 'G', 'Y', 'P']] ['R', 'G', 'Y', 'P'] [['B', 'G', 'O', 'R'], ['B', 'O', 'Y', 'P']] rfl ((calc_eq_fastP ['R', 'G', 'Y', 'P'] ['B', 'O', 'Y', 'P'] (by decide) (by decide)).trans (by decide)) (by decide) pe201 rfl (findNextGuess_singleton ['R', 'G', 'Y', 'P'] [['B', 'G', 'O', 'R'], ['B', 'O', 'Y', 'P']]) (by decide) (by decide) (by decide)).trans ?_
  refine Eq.trans (step_lift ['B', 'O', 'Y', 'P'] (?_ : loopRun (honest ['R', 'G', 'Y', 'P']) 5 (some ['R', 'G', 'Y', 'P']) [['R', 'G', 'Y', 'P']] [['B', 'G', 'O', 'R'], ['B', 'O', 'Y', 'P']] = (RunResult.solved ['R', 'G', 'Y', 'P'] 3, [['R', 'G', 'Y', 'P']]))) rfl
  exact loopRun_last ['R', 'G', 'Y', 'P'] 5 4 [['R', 'G', 'Y', 'P']] [['B', 'G', 'O', 'R'], ['B', 'O', 'Y', 'P']] rfl rfl (by decide)

lemma rs201 : loopRun (honest ['R', 'G', 'P', 'B']) 7 none S0 [] =
    (RunResult.solved ['R', 'G', 'P', 'B'] 5, [['B', 'G', 'O', 'R'], ['B', 'O', 'R', 'Y'], ['G', 'P', 'O', 'B'], ['G', 'B', 'P', 'R'], ['R', 'G', 'P', 'B']]) := by
  refine (loopRun_none' (honest ['R', 'G', 'P', 'B']) 7 S0 []).trans ?_
  refine (loopRun_step ['R', 'G', 'P', 'B'] 7 6 ['B', 'G', 'O', 'R'] S0 [] 2 1 E13 ['B', 'O', 'R', 'Y'] [['B', 'G', 'O', 'R']] rfl ((calc_eq_fastP ['R', 'G', 'P', 'B'] ['B', 'G', 'O', 'R'] (by decide) (by decide)).trans (by decide)) (by decide) pe13 rfl nx13 (by decide) (by decide) (by decide)).trans ?_
  refine Eq.trans (step_lift ['B', 'G', 'O', 'R'] (?_ : loopRun (honest ['R', 'G', 'P', 'B']) 6 (some ['B', 'O', 'R', 'Y']) E13 [['B', 'G', 'O', 'R']] = (RunResult.solved ['R', 'G', 'P', 'B'] 5, [['B', 'O', 'R', 'Y'], ['G', 'P', 'O', 'B'], ['G', 'B', 'P', 'R'], ['R', 'G', 'P', 'B']]))) rfl
  refine (loopRun_step ['R', 'G', 'P', 'B'] 6 5 ['B', 'O', 'R', 'Y'] E13 [['B', 'G', 'O', 'R']] 2 0 E62 ['G', 'P', 'O', 'B'] [['B', 'G', 'O', 'R'], ['B', 'O', 'R', 'Y']] rfl ((calc_eq_fastP ['R', 'G', 'P', 'B'] ['B', 'O', 'R', 'Y'] (by decide) (by decide)).trans (by decide)) (by decide) pe62 rfl nx62 (by decide) (by decide) (by decide)).trans ?_
  refine Eq.trans (step_lift ['B', 'O', 'R', 'Y'] (?_ : loopRun (honest ['R', 'G', 'P', 'B']) 5 (some ['G', 'P', 'O', 'B']) E62 [['B', 'G', 'O', 'R'], ['B', 'O', 'R', 'Y']] = (RunResult.solved ['R', 'G', 'P', 'B'] 5, [['G', 'P', 'O', 'B'], ['G', 'B', 'P', 'R'], ['R', 'G', 'P', 'B']]))) rfl
  refine (loopRun_step ['R', 'G', 'P', 'B'] 5 4 ['G', 'P', 'O', 'B'] E62 [['B', 'G', 'O', 'R'], ['B', 'O', 'R', 'Y']] 2 1 E77 ['G', 'B', 'P', 'R'] [['B', 'G', 'O', 'R'], ['B', 'O', 'R', 'Y'], ['G', 'P', 'O', 'B']] rfl ((calc_eq_fastP ['R', 'G', 'P', 'B'] ['G', 'P', 'O', 'B'] (by decide) (by decide)).trans (by decide)) (by decide) pe77 rfl nx77 (by decide) (by decide) (by decide)).trans ?_
  refine Eq.trans (step_lift ['G', 'P', 'O', 'B'] (?_ : loopRun (honest ['R', 'G', 'P', 'B']) 4 (some ['G', 'B', 'P', 'R']) E77 [['B', 'G', 'O', 'R'], ['B', 'O', 'R', 'Y'], ['G', 'P', 'O', 'B']] = (RunResult.solved ['R', 'G', 'P', 'B'] 5, [['G', 'B', 'P', 'R'], ['R', 'G', 'P', 'B']]))) rfl
  refine (loopRun_step ['R', 'G', 'P', 'B'] 4 3 ['G', 'B', 'P', 'R'] E77 [['B', 'G', 'O', 'R'], ['B', 'O', 'R', 'Y'], ['G', 'P', 'O', 'B']] 3 1 [['R', 'G', 'P', 'B']] ['R', 'G', 'P', 'B'] [['B', 'G', 'O', 'R'], ['B', 'O', 'R', 'Y'], ['G', 'P', 'O', 'B'], ['G', 'B', 'P', 'R']] rfl ((calc_eq_fastP ['R', 'G', 'P', 'B'] ['G', 'B', 'P', 'R'] (by decide) (by decide)).trans (by decide)) (by decide) pe202 rfl (findNextGuess_singleton ['R', 'G', 'P', 'B'] [['B', 'G', 'O', 'R'], ['B', 'O', 'R', 'Y'], ['G', 'P', 'O', 'B'], ['G', 'B', 'P', 'R']]) (by decide) (by decide) (by decide)).trans ?_
  refine Eq.trans (step_lift ['G', 'B', 'P', 'R'] (?_ : loopRun (honest ['R', 'G', 'P', 'B']) 3 (some ['R', 'G', 'P', 'B']) [['R', 'G', 'P', 'B']] [['B', 'G', 'O', 'R'], ['B', 'O', 'R', 'Y'], ['G', 'P', 'O', 'B'], ['G', 'B', 'P', 'R']] = (RunResult.solved ['R', 'G', 'P', 'B'] 5, [['R', 'G', 'P', 'B']]))) rfl
  exact loopRun_last ['R', 'G', 'P', 'B'] 3 2 [['R', 'G', 'P', 'B']] [['B', 'G', 'O', 'R'], ['B', 'O', 'R', 'Y'], ['G', 'P', 'O', 'B'], ['G', 'B', 'P', 'R']] rfl rfl (by decide)

lemma rs202 : loopRun (honest ['R', 'G', 'P', 'O']) 7 none S0 [] =
    (RunResult.solved ['R', 'G', 'P', 'O'] 5, [['B', 'G', 'O', 'R'], ['B', 'O', 'R', 'Y'], ['G', 'P', 'O', 'B'], ['R', 'G', 'B', 'P'], ['R', 'G', 'P', 'O']]) := by
  refine (loopRun_none' (honest ['R', 'G', 'P', 'O']) 7 S0 []).trans ?_
  refine (loopRun_step ['R', 'G', 'P', 'O'] 7 6 ['B', 'G', 'O', 'R'] S0 [] 2 1 E13 ['B', 'O', 'R', 'Y'] [['B', 'G', 'O', 'R']] rfl ((calc_eq_fastP ['R', 'G', 'P', 'O'] ['B', 'G', 'O', 'R'] (by decide) (by decide)).trans (by decide)) (by decide) pe13 rfl nx13 (by decide) (by decide) (by decide)).trans ?_
  refine Eq.trans (step_lift ['B', 'G', 'O', 'R'] (?_ : loopRun (honest ['R', 'G', 'P', 'O']) 6 (some ['B', 'O', 'R', 'Y']) E13 [['B', 'G', 'O', 'R']] = (RunResult.solved ['R', 'G', 'P', 'O'] 5, [['B', 'O', 'R', 'Y'], ['G', 'P', 'O', 'B'], ['R', 'G', 'B', 'P'], ['R', 'G', 'P', 'O']]))) rfl
  refine (loopRun_step ['R', 'G', 'P', 'O'] 6 5 ['B', 'O', 'R', 'Y'] E13 [['B', 'G', 'O', 'R']] 2 0 E62 ['G', 'P', 'O', 'B'] [['B', 'G', 'O', 'R'], ['B', 'O', 'R', 'Y']] rfl ((calc_eq_fastP ['R', 'G', 'P', 'O'] ['B', 'O', 'R', 'Y'] (by decide) (by decide)).trans (by decide)) (by decide) pe62 rfl nx62 (by decide) (by decide) (by decide)).trans ?_
  refine Eq.trans (step_lift ['B', 'O', 'R', 'Y'] (?_ : loopRun (honest ['R', 'G', 'P', 'O']) 5 (some ['G', 'P', 'O', 'B']) E62 [['B', 'G', 'O', 'R'], ['B', 'O', 'R', 'Y']] = (RunResult.solved ['R', 'G', 'P', 'O'] 5, [['G', 'P', 'O', 'B'], ['R', 'G', 'B', 'P'], ['R', 'G', 'P', 'O']]))) rfl
  refine (loopRun_step ['R', 'G', 'P', 'O'] 5 4 ['G', 'P', 'O', 'B'] E62 [['B', 'G', 'O', 'R'], ['B', 'O', 'R', 'Y']] 3 0 E195 ['R', 'G', 'B', 'P'] [['B', 'G', 'O', 'R'], ['B', 'O', 'R', 'Y'], ['G', 'P', 'O', 'B']] rfl ((calc_eq_fastP ['R', 'G', 'P', 'O'] ['G', 'P', 'O', 'B'] (by decide) (by decide)).trans (by decide)) (by decide) pe195 rfl nx195 (by decide) (by decide) (by decide)).trans ?_
  refine Eq.trans (step_lift ['G', 'P', 'O', 'B'] (?_ : loopRun (honest ['R', 'G', 'P', 'O']) 4 (some ['R', 'G', 'B', 'P']) E195 [['B', 'G', 'O', 'R'], ['B', 'O', 'R', 'Y'], ['G', 'P', 'O', 'B']] = (RunResult.solved ['R', 'G', 'P', 'O'] 5, [['R', 'G', 'B', 'P'], ['R', 'G', 'P', 'O']]))) rfl
  refine (loopRun_step ['R', 'G', 'P', 'O'] 4 3 ['R', 'G', 'B', 'P'] E195 [['B', 'G', 'O', 'R'], ['B', 'O', 'R', 'Y'], ['G', 'P', 'O', 'B']] 1 2 [['R', 'G', 'P', 'O']] ['R', 'G', 'P', 'O'] [['B', 'G', 'O', 'R'], ['B', 'O', 'R', 'Y'], ['G', 'P', 'O', 'B'], ['R', 'G', 'B', 'P']] rfl ((calc_eq_fastP ['R', 'G', 'P', 'O'] ['R', 'G', 'B', 'P'] (by decide) (by decide)).trans (by decide)) (by decide) pe203 rfl (findNextGuess_singleton ['R', 'G', 'P', 'O'] [['B', 'G', 'O', 'R'], ['B', 'O', 'R', 'Y'], ['G', 'P', 'O', 'B'], ['R', 'G', 'B', 'P']]) (by decide) (by decide) (by decide)).trans ?_
  refine Eq.trans (step_lift ['R', 'G', 'B', 'P'] (?_ : loopRun (honest ['R', 'G', 'P', 'O']) 3 (some ['R', 'G', 'P', 'O']) [['R', 'G', 'P', 'O']] [['B', 'G', 'O', 'R'], ['B', 'O', 'R', 'Y'], ['G', 'P', 'O', 'B'], ['R', 'G', 'B', 'P']] = (RunResult.solved ['R', 'G', 'P', 'O'] 5, [['R', 'G', 'P', 'O']]))) rfl
  exact loopRun_last ['R', 'G', 'P', 'O'] 3 2 [['R', 'G', 'P', 'O']] [['B', 'G', 'O', 'R'], ['B', 'O', 'R', 'Y'], ['G', 'P', 'O', 'B'], ['R', 'G', 'B', 'P']] rfl rfl (by decide)

lemma rs203 : loopRun (honest ['R', 'G', 'P', 'Y']) 7 none S0 [] =
    (RunResult.solved ['R', 'G', 'P', 'Y'] 4, [['B', 'G', 'O', 'R'], ['B', 'O', 'Y', 'P'], ['G', 'Y', 'P', 'R'], ['R', 'G', 'P', 'Y']]) := by
  refine (loopRun_none' (honest ['R', 'G', 'P', 'Y']) 7 S0 []).trans ?_
  refine (loopRun_step ['R', 'G', 'P', 'Y'] 7 6 ['B', 'G', 'O', 'R'] S0 [] 1 1 E20 ['B', 'O', 'Y', 'P'] [['B', 'G', 'O', 'R']] rfl ((calc_eq_fastP ['R', 'G', 'P', 'Y'] ['B', 'G', 'O', 'R'] (by decide) (by decide)).trans (by decide)) (by decide) pe20 rfl nx20 (by decide) (by decide) (by decide)).trans ?_
  refine Eq.trans (step_lift ['B', 'G', 'O', 'R'] (?_ : loopRun (honest ['R', 'G', 'P', 'Y']) 6 (some ['B', 'O', 'Y', 'P']) E20 [['B', 'G', 'O', 'R']] = (RunResult.solved ['R', 'G', 'P', 'Y'] 4, [['B', 'O', 'Y', 'P'], ['G', 'Y', 'P', 'R'], ['R', 'G', 'P', 'Y']]))) rfl
  refine (loopRun_step ['R', 'G', 'P', 'Y'] 6 5 ['B', 'O', 'Y', 'P'] E20 [['B', 'G', 'O', 'R']] 2 0 E109 ['G', 'Y', 'P', 'R'] [['B', 'G', 'O', 'R'], ['B', 'O', 'Y', 'P']] rfl ((calc_eq_fastP ['R', 'G', 'P', 'Y'] ['B', 'O', 'Y', 'P'] (by decide) (by decide)).trans (by decide)) (by decide) pe109 rfl nx109 (by decide) (by decide) (by decide)).trans ?_
  refine Eq.trans (step_lift ['B', 'O', 'Y', 'P'] (?_ : loopRun (honest ['R', 'G', 'P', 'Y']) 5 (some ['G', 'Y', 'P', 'R']) E109 [['B', 'G', 'O', 'R'], ['B', 'O', 'Y', 'P']] = (RunResult.solved ['R', 'G', 'P', 'Y'] 4, [['G', 'Y', 'P', 'R'], ['R', 'G', 'P', 'Y']]))) rfl
  refine (loopRun_step ['R', 'G', 'P', 'Y'] 5 4 ['G', 'Y', 'P', 'R'] E109 [['B', 'G', 'O', 'R'], ['B', 'O', 'Y', 'P']] 3 1 E204 ['R', 'G', 'P', 'Y'] [['B', 'G', 'O', 'R'], ['B', 'O', 'Y', 'P'], ['G', 'Y', 'P', 'R']] rfl ((calc_eq_fastP ['R', 'G', 'P', 'Y'] ['G', 'Y', 'P', 'R'] (by decide) (by decide)).trans (by decide)) (by decide) pe204 rfl nx204 (by decide) (by decide) (by decide)).trans ?_
  refine Eq.trans (step_lift ['G', 'Y', 'P', 'R'] (?_ : loopRun (honest ['R', 'G', 'P', 'Y']) 4 (some ['R', 'G', 'P', 'Y']) E204 [['B', 'G', 'O', 'R'], ['B', 'O', 'Y', 'P'], ['G', 'Y', 'P', 'R']] = (RunResult.solved ['R', 'G', 'P', 'Y'] 4, [['R', 'G', 'P', 'Y']]))) rfl
  exact loopRun_last ['R', 'G', 'P', 'Y'] 4 3 E204 [['B', 'G', 'O', 'R'], ['B', 'O', 'Y', 'P'], ['G', 'Y', 'P', 'R']] rfl rfl (by decide)

lemma rs204 : loopRun (honest ['R', 'O', 'B', 'G']) 7 none S0 [] =
    (RunResult.solved ['R', 'O', 'B', 'G'] 5, [['B', 'G', 'O', 'R'], ['G', 'B', 'R', 'O'], ['O', 'R', 'B', 'G'], ['O', 'R', 'G', 'B'], ['R', 'O', 'B', 'G']]) := by
  refine (loopRun_none' (honest ['R', 'O', 'B', 'G']) 7 S0 []).trans ?_
  refine (loopRun_step ['R', 'O', 'B', 'G'] 7 6 ['B', 'G', 'O', 'R'] S0 [] 4 0 E64 ['G', 'B', 'R', 'O'] [['B', 'G', 'O', 'R']] rfl ((calc_eq_fastP ['R', 'O', 'B', 'G'] ['B', 'G', 'O', 'R'] (by decide) (by decide)).trans (by decide)) (by decide) pe64 rfl nx64 (by decide) (by decide) (by decide)).trans ?_
  refine Eq.trans (step_lift ['B', 'G', 'O', 'R'] (?_ : loopRun (honest ['R', 'O', 'B', 'G']) 6 (some ['G', 'B', 'R', 'O']) E64 [['B', 'G', 'O', 'R']] = (RunResult.solved ['R', 'O', 'B', 'G'] 5, [['G', 'B', 'R', 'O'], ['O', 'R', 'B', 'G'], ['O', 'R', 'G', 'B'], ['R', 'O', 'B', 'G']]))) rfl
  refine (loopRun_step ['R', 'O', 'B', 'G'] 6 5 ['G', 'B', 'R', 'O'] E64 [['B', 'G', 'O', 'R']] 4 0 E146 ['O', 'R', 'B', 'G'] [['B', 'G', 'O', 'R'], ['G', 'B', 'R', 'O']] rfl ((calc_eq_fastP ['R', 'O', 'B', 'G'] ['G', 'B', 'R', 'O'] (by decide) (by decide)).trans (by decide)) (by decide) pe146 rfl nx146 (by decide) (by decide) (by decide)).trans ?_
  refine Eq.trans (step_lift ['G', 'B', 'R', 'O'] (?_ : loopRun (honest ['R', 'O', 'B', 'G']) 5 (some ['O', 'R', 'B', 'G']) E146 [['B', 'G', 'O', 'R'], ['G', 'B', 'R', 'O']] = (RunResult.solved ['R', 'O', 'B', 'G'] 5, [['O', 'R', 'B', 'G'], ['O', 'R', 'G', 'B'], ['R', 'O', 'B', 'G']]))) rfl
  refine (loopRun_step ['R', 'O', 'B', 'G'] 5 4 ['O', 'R', 'B', 'G'] E146 [['B', 'G', 'O', 'R'], ['G', 'B', 'R', 'O']] 2 2 E150 ['O', 'R', 'G', 'B'] [['B', 'G', 'O', 'R'], ['G', 'B', 'R', 'O'], ['O', 'R', 'B', 'G']] rfl ((calc_eq_fastP ['R', 'O', 'B', 'G'] ['O', 'R', 'B', 'G'] (by decide) (by decide)).trans (by decide)) (by decide) pe150 rfl nx150 (by decide) (by decide) (by decide)).trans ?_
  refine Eq.trans (step_lift ['O', 'R', 'B', 'G'] (?_ : loopRun (honest ['R', 'O', 'B', 'G']) 4 (some ['O', 'R', 'G', 'B']) E150 [['B', 'G', 'O', 'R'], ['G', 'B', 'R', 'O'], ['O', 'R', 'B', 'G']] = (RunResult.solved ['R', 'O', 'B', 'G'] 5, [['O', 'R', 'G', 'B'], ['R', 'O', 'B', 'G']]))) rfl
  refine (loopRun_step ['R', 'O', 'B', 'G'] 4 3 ['O', 'R', 'G', 'B'] E150 [['B', 'G', 'O', 'R'], ['G', 'B', 'R', 'O'], ['O', 'R', 'B', 'G']] 4 0 [['R', 'O', 'B', 'G']] ['R', 'O', 'B', 'G'] [['B', 'G', 'O', 'R'], ['G', 'B', 'R', 'O'], ['O', 'R', 'B', 'G'], ['O', 'R', 'G', 'B']] rfl ((calc_eq_fastP ['R', 'O', 'B', 'G'] ['O', 'R', 'G', 'B'] (by decide) (by decide)).trans (by decide)) (by decide) pe205 rfl (findNextGuess_singleton ['R', 'O', 'B', 'G'] [['B', 'G', 'O', 'R'], ['G', 'B', 'R', 'O'], ['O', 'R', 'B', 'G'], ['O', 'R', 'G', 'B']]) (by decide) (by decide) (by decide)).trans ?_
  refine Eq.trans (step_lift ['O', 'R', 'G', 'B'] (?_ : loopRun (honest ['R', 'O', 'B', 'G']) 3 (some ['R', 'O', 'B', 'G']) [['R', 'O', 'B', 'G']] [['B', 'G', 'O', 'R'], ['G', 'B', 'R', 'O'], ['O', 'R', 'B', 'G'], ['O', 'R', 'G', 'B']] = (RunResult.solved ['R', 'O', 'B', 'G'] 5, [['R', 'O', 'B', 'G']]))) rfl
  exact loopRun_last ['R', 'O', 'B', 'G'] 3 2 [['R', 'O', 'B', 'G']] [['B', 'G', 'O', 'R'], ['G', 'B', 'R', 'O'], ['O', 'R', 'B', 'G'], ['O', 'R', 'G', 'B']] rfl rfl (by decide)

lemma rs205 : loopRun (honest ['R', 'O', 'B', 'Y']) 7 none S0 [] =
    (RunResult.solved ['R', 'O', 'B', 'Y'] 5, [['B', 'G', 'O', 'R'], ['G', 'O', 'R', 'Y'], ['G', 'O', 'Y', 'B'], ['G', 'R', 'B', 'Y'], ['R', 'O', 'B', 'Y']]) := by
  refine (loopRun_none' (honest ['R', 'O', 'B', 'Y']) 7 S0 []).trans ?_
  refine (loopRun_step ['R', 'O', 'B', 'Y'] 7 6 ['B', 'G', 'O', 'R'] S0 [] 3 0 E65 ['G', 'O', 'R', 'Y'] [['B', 'G', 'O', 'R']] rfl ((calc_eq_fastP ['R', 'O', 'B', 'Y'] ['B', 'G', 'O', 'R'] (by decide) (by decide)).trans (by decide)) (by decide) pe65 rfl nx65 (by decide) (by decide) (by decide)).trans ?_
  refine Eq.trans (step_lift ['B', 'G', 'O', 'R'] (?_ : loopRun (honest ['R', 'O', 'B', 'Y']) 6 (some ['G', 'O', 'R', 'Y']) E65 [['B', 'G', 'O', 'R']] = (RunResult.solved ['R', 'O', 'B', 'Y'] 5, [['G', 'O', 'R', 'Y'], ['G', 'O', 'Y', 'B'], ['G', 'R', 'B', 'Y'], ['R', 'O', 'B', 'Y']]))) rfl
  refine (loopRun_step ['R', 'O', 'B', 'Y'] 6 5 ['G', 'O', 'R', 'Y'] E65 [['B', 'G', 'O', 'R']] 1 2 E84 ['G', 'O', 'Y', 'B'] [['B', 'G', 'O', 'R'], ['G', 'O', 'R', 'Y']] rfl ((calc_eq_fastP ['R', 'O', 'B', 'Y'] ['G', 'O', 'R', 'Y'] (by decide) (by decide)).trans (by decide)) (by decide) pe84 rfl nx84 (by decide) (by decide) (by decide)).trans ?_
  refine Eq.trans (step_lift ['G', 'O', 'R', 'Y'] (?_ : loopRun (honest ['R', 'O', 'B', 'Y']) 5 (some ['G', 'O', 'Y', 'B']) E84 [['B', 'G', 'O', 'R'], ['G', 'O', 'R', 'Y']] = (RunResult.solved ['R', 'O', 'B', 'Y'] 5, [['G', 'O', 'Y', 'B'], ['G', 'R', 'B', 'Y'], ['R', 'O', 'B', 'Y']]))) rfl
  refine (loopRun_step ['R', 'O', 'B', 'Y'] 5 4 ['G', 'O', 'Y', 'B'] E84 [['B', 'G', 'O', 'R'], ['G', 'O', 'R', 'Y']] 2 1 E90 ['G', 'R', 'B', 'Y'] [['B', 'G', 'O', 'R'], ['G', 'O', 'R', 'Y'], ['G', 'O', 'Y', 'B']] rfl ((calc_eq_fastP ['R', 'O', 'B', 'Y'] ['G', 'O', 'Y', 'B'] (by decide) (by decide)).trans (by decide)) (by decide) pe90 rfl nx90 (by decide) (by decide) (by decide)).trans ?_
  refine Eq.trans (step_lift ['G', 'O', 'Y', 'B'] (?_ : loopRun (honest ['R', 'O', 'B', 'Y']) 4 (some ['G', 'R', 'B', 'Y']) E90 [['B', 'G', 'O', 'R'], ['G', 'O', 'R', 'Y'], ['G', 'O', 'Y', 'B']] = (RunResult.solved ['R', 'O', 'B', 'Y'] 5, [['G', 'R', 'B', 'Y'], ['R', 'O', 'B', 'Y']]))) rfl
  refine (loopRun_step ['R', 'O', 'B', 'Y'] 4 3 ['G', 'R', 'B', 'Y'] E90 [['B', 'G', 'O', 'R'], ['G', 'O', 'R', 'Y'], ['G', 'O', 'Y', 'B']] 1 2 [['R', 'O', 'B', 'Y']] ['R', 'O', 'B', 'Y'] [['B', 'G', 'O', 'R'], ['G', 'O', 'R', 'Y'], ['G', 'O', 'Y', 'B'], ['G', 'R', 'B', 'Y']] rfl ((calc_eq_fastP ['R', 'O', 'B', 'Y'] ['G', 'R', 'B', 'Y'] (by decide) (by decide)).trans (by decide)) (by decide) pe206 rfl (findNextGuess_singleton ['R', 'O', 'B', 'Y'] [['B', 'G', 'O', 'R'], ['G', 'O', 'R', 'Y'], ['G', 'O', 'Y', 'B'], ['G', 'R', 'B', 'Y']]) (by decide) (by decide) (by decide)).trans ?_
  refine Eq.trans (step_lift ['G', 'R', 'B', 'Y'] (?_ : loopRun (honest ['R', 'O', 'B', 'Y']) 3 (some ['R', 'O', 'B', 'Y']) [['R', 'O', 'B', 'Y']] [['B', 'G', 'O', 'R'], ['G', 'O', 'R', 'Y'], ['G', 'O', 'Y', 'B'], ['G', 'R', 'B', 'Y']] = (RunResult.solved ['R', 'O', 'B', 'Y'] 5, [['R', 'O', 'B', 'Y']]))) rfl
  exact loopRun_last ['R', 'O', 'B', 'Y'] 3 2 [['R', 'O', 'B', 'Y']] [['B', 'G', 'O', 'R'], ['G', 'O', 'R', 'Y'], ['G', 'O', 'Y', 'B'], ['G', 'R', 'B', 'Y']] rfl rfl (by decide)

lemma rs206 : loopRun (honest ['R', 'O', 'B', 'P']) 7 none S0 [] =
    (RunResult.solved ['R', 'O', 'B', 'P'] 3, [['B', 'G', 'O', 'R'], ['G', 'O', 'R', 'Y'], ['R', 'O', 'B', 'P']]) := by
  refine (loopRun_none' (honest ['R', 'O', 'B', 'P']) 7 S0 []).trans ?_
  refine (loopRun_step ['R', 'O', 'B', 'P'] 7 6 ['B', 'G', 'O', 'R'] S0 [] 3 0 E65 ['G', 'O', 'R', 'Y'] [['B', 'G', 'O', 'R']] rfl ((calc_eq_fastP ['R', 'O', 'B', 'P'] ['B', 'G', 'O', 'R'] (by decide) (by decide)).trans (by decide)) (by decide) pe65 rfl nx65 (by decide) (by decide) (by decide)).trans ?_
  refine Eq.trans (step_lift ['B', 'G', 'O', 'R'] (?_ : loopRun (honest ['R', 'O', 'B', 'P']) 6 (some ['G', 'O', 'R', 'Y']) E65 [['B', 'G', 'O', 'R']] = (RunResult.solved ['R', 'O', 'B', 'P'] 3, [['G', 'O', 'R', 'Y'], ['R', 'O', 'B', 'P']]))) rfl
  refine (loopRun_step ['R', 'O', 'B', 'P'] 6 5 ['G', 'O', 'R', 'Y'] E65 [['B', 'G', 'O', 'R']] 1 1 E75 ['R', 'O', 'B', 'P'] [['B', 'G', 'O', 'R'], ['G', 'O', 'R', 'Y']] rfl ((calc_eq_fastP ['R', 'O', 'B', 'P'] ['G', 'O', 'R', 'Y'] (by decide) (by decide)).trans (by decide)) (by decide) pe75 rfl nx75 (by decide) (by decide) (by decide)).trans ?_
  refine Eq.trans (step_lift ['G', 'O', 'R', 'Y'] (?_ : loopRun (honest ['R', 'O', 'B', 'P']) 5 (some ['R', 'O', 'B', 'P']) E75 [['B', 'G', 'O', 'R'], ['G', 'O', 'R', 'Y']] = (RunResult.solved ['R', 'O', 'B', 'P'] 3, [['R', 'O', 'B', 'P']]))) rfl
  exact loopRun_last ['R', 'O', 'B', 'P'] 5 4 E75 [['B', 'G', 'O', 'R'], ['G', 'O', 'R', 'Y']] rfl rfl (by decide)

lemma rs207 : loopRun (honest ['R', 'O', 'G', 'B']) 7 none S0 [] =
    (RunResult.solved ['R', 'O', 'G', 'B'] 4, [['B', 'G', 'O', 'R'], ['G', 'B', 'R', 'O'], ['O', 'R', 'B', 'G'], ['R', 'O', 'G', 'B']]) := by
  refine (loopRun_none' (honest ['R', 'O', 'G', 'B']) 7 S0 []).trans ?_
  refine (loopRun_step ['R', 'O', 'G', 'B'] 7 6 ['B', 'G', 'O', 'R'] S0 [] 4 0 E64 ['G', 'B', 'R', 'O'] [['B', 'G', 'O', 'R']] rfl ((calc_eq_fastP ['R', 'O', 'G', 'B'] ['B', 'G', 'O', 'R'] (by decide) (by decide)).trans (by decide)) (by decide) pe64 rfl nx64 (by decide) (by decide) (by decide)).trans ?_
  refine Eq.trans (step_lift ['B', 'G', 'O', 'R'] (?_ : loopRun (honest ['R', 'O', 'G', 'B']) 6 (some ['G', 'B', 'R', 'O']) E64 [['B', 'G', 'O', 'R']] = (RunResult.solved ['R', 'O', 'G', 'B'] 4, [['G', 'B', 'R', 'O'], ['O', 'R', 'B', 'G'], ['R', 'O', 'G', 'B']]))) rfl
  refine (loopRun_step ['R', 'O', 'G', 'B'] 6 5 ['G', 'B', 'R', 'O'] E64 [['B', 'G', 'O', 'R']] 4 0 E146 ['O', 'R', 'B', 'G'] [['B', 'G', 'O', 'R'], ['G', 'B', 'R', 'O']] rfl ((calc_eq_fastP ['R', 'O', 'G', 'B'] ['G', 'B', 'R', 'O'] (by decide) (by decide)).trans (by decide)) (by decide) pe146 rfl nx146 (by decide) (by decide) (by decide)).trans ?_
  refine Eq.trans (step_lift ['G', 'B', 'R', 'O'] (?_ : loopRun (honest ['R', 'O', 'G', 'B']) 5 (some ['O', 'R', 'B', 'G']) E146 [['B', 'G', 'O', 'R'], ['G', 'B', 'R', 'O']] = (RunResult.solved ['R', 'O', 'G', 'B'] 4, [['O', 'R', 'B', 'G'], ['R', 'O', 'G', 'B']]))) rfl
  refine (loopRun_step ['R', 'O', 'G', 'B'] 5 4 ['O', 'R', 'B', 'G'] E146 [['B', 'G', 'O', 'R'], ['G', 'B', 'R', 'O']] 4 0 [['R', 'O', 'G', 'B']] ['R', 'O', 'G', 'B'] [['B', 'G', 'O', 'R'], ['G', 'B', 'R', 'O'], ['O', 'R', 'B', 'G']] rfl ((calc_eq_fastP ['R', 'O', 'G', 'B'] ['O', 'R', 'B', 'G'] (by decide) (by decide)).trans (by decide)) (by decide) pe207 rfl (findNextGuess_singleton ['R', 'O', 'G', 'B'] [['B', 'G', 'O', 'R'], ['G', 'B', 'R', 'O'], ['O', 'R', 'B', 'G']]) (by decide) (by decide) (by decide)).trans ?_
  refine Eq.trans (step_lift ['O', 'R', 'B', 'G'] (?_ : loopRun (honest ['R', 'O', 'G', 'B']) 4 (some ['R', 'O', 'G', 'B']) [['R', 'O', 'G', 'B']] [['B', 'G', 'O', 'R'], ['G', 'B', 'R', 'O'], ['O', 'R', 'B', 'G']] = (RunResult.solved ['R', 'O', 'G', 'B'] 4, [['R', 'O', 'G', 'B']]))) rfl
  exact loopRun_last ['R', 'O', 'G', 'B'] 4 3 [['R', 'O', 'G', 'B']] [['B', 'G', 'O', 'R'], ['G', 'B', 'R', 'O'], ['O', 'R', 'B', 'G']] rfl rfl (by decide)

lemma rs208 : loopRun (honest ['R', 'O', 'G', 'Y']) 7 none S0 [] =
    (RunResult.solved ['R', 'O', 'G', 'Y'] 4, [['B', 'G', 'O', 'R'], ['G', 'O', 'R', 'Y'], ['G', 'Y', 'R', 'O'], ['R', 'O', 'G', 'Y']]) := by
  refine (loopRun_none' (honest ['R', 'O', 'G', 'Y']) 7 S0 []).trans ?_
  refine (loopRun_step ['R', 'O', 'G', 'Y'] 7 6 ['B', 'G', 'O', 'R'] S0 [] 3 0 E65 ['G', 'O', 'R', 'Y'] [['B', 'G', 'O', 'R']] rfl ((calc_eq_fastP ['R', 'O', 'G', 'Y'] ['B', 'G', 'O', 'R'] (by decide) (by decide)).trans (by decide)) (by decide) pe65 rfl nx65 (by decide) (by decide) (by decide)).trans ?_
  refine Eq.trans (step_lift ['B', 'G', 'O', 'R'] (?_ : loopRun (honest ['R', 'O', 'G', 'Y']) 6 (some ['G', 'O', 'R', 'Y']) E65 [['B', 'G', 'O', 'R']] = (RunResult.solved ['R', 'O', 'G', 'Y'] 4, [['G', 'O', 'R', 'Y'], ['G', 'Y', 'R', 'O'], ['R', 'O', 'G', 'Y']]))) rfl
  refine (loopRun_step ['R', 'O', 'G', 'Y'] 6 5 ['G', 'O', 'R', 'Y'] E65 [['B', 'G', 'O', 'R']] 2 2 E106 ['G', 'Y', 'R', 'O'] [['B', 'G', 'O', 'R'], ['G', 'O', 'R', 'Y']] rfl ((calc_eq_fastP ['R', 'O', 'G', 'Y'] ['G', 'O', 'R', 'Y'] (by decide) (by decide)).trans (by decide)) (by decide) pe106 rfl nx106 (by decide) (by decide) (by decide)).trans ?_
  refine Eq.trans (step_lift ['G', 'O', 'R', 'Y'] (?_ : loopRun (honest ['R', 'O', 'G', 'Y']) 5 (some ['G', 'Y', 'R', 'O']) E106 [['B', 'G', 'O', 'R'], ['G', 'O', 'R', 'Y']] = (RunResult.solved ['R', 'O', 'G', 'Y'] 4, [['G', 'Y', 'R', 'O'], ['R', 'O', 'G', 'Y']]))) rfl
  refine (loopRun_step ['R', 'O', 'G', 'Y'] 5 4 ['G', 'Y', 'R', 'O'] E106 [['B', 'G', 'O', 'R'], ['G', 'O', 'R', 'Y']] 4 0 [['R', 'O', 'G', 'Y']] ['R', 'O', 'G', 'Y'] [['B', 'G', 'O', 'R'], ['G', 'O', 'R', 'Y'], ['G', 'Y', 'R', 'O']] rfl ((calc_eq_fastP ['R', 'O', 'G', 'Y'] ['G', 'Y', 'R', 'O'] (by decide) (by decide)).trans (by decide)) (by decide) pe208 rfl (findNextGuess_singleton ['R', 'O', 'G', 'Y'] [['B', 'G', 'O', 'R'], ['G', 'O', 'R', 'Y'], ['G', 'Y', 'R', 'O']]) (by decide) (by decide) (by decide)).trans ?_
  refine Eq.trans (step_lift ['G', 'Y', 'R', 'O'] (?_ : loopRun (honest ['R', 'O', 'G', 'Y']) 4 (some ['R', 'O', 'G', 'Y']) [['R', 'O', 'G', 'Y']] [['B', 'G', 'O', 'R'], ['G', 'O', 'R', 'Y'], ['G', 'Y', 'R', 'O']] = (RunResult.solved ['R', 'O', 'G', 'Y'] 4, [['R', 'O', 'G', 'Y']]))) rfl
  exact loopRun_last ['R', 'O', 'G', 'Y'] 4 3 [['R', 'O', 'G', 'Y']] [['B', 'G', 'O', 'R'], ['G', 'O', 'R', 'Y'], ['G', 'Y', 'R', 'O']] rfl rfl (by decide)

lemma rs209 : loopRun (honest ['R', 'O', 'G', 'P']) 7 none S0 [] =
    (RunResult.solved ['R', 'O', 'G', 'P'] 5, [['B', 'G', 'O', 'R'], ['G', 'O', 'R', 'Y'], ['G', 'B', 'Y', 'O'], ['O', 'P', 'R', 'G'], ['R', 'O', 'G', 'P']]) := by
  refine (loopRun_none' (honest ['R', 'O', 'G', 'P']) 7 S0 []).trans ?_
  refine (loopRun_step ['R', 'O', 'G', 'P'] 7 6 ['B', 'G', 'O', 'R'] S0 [] 3 0 E65 ['G', 'O', 'R', 'Y'] [['B', 'G', 'O', 'R']] rfl ((calc_eq_fastP ['R', 'O', 'G', 'P'] ['B', 'G', 'O', 'R'] (by decide) (by decide)).trans (by decide)) (by decide) pe65 rfl nx65 (by decide) (by decide) (by decide)).trans ?_
  refine Eq.trans (step_lift ['B', 'G', 'O', 'R'] (?_ : loopRun (honest ['R', 'O', 'G', 'P']) 6 (some ['G', 'O', 'R', 'Y']) E65 [['B', 'G', 'O', 'R']] = (RunResult.solved ['R', 'O', 'G', 'P'] 5, [['G', 'O', 'R', 'Y'], ['G', 'B', 'Y', 'O'], ['O', 'P', 'R', 'G'], ['R', 'O', 'G', 'P']]))) rfl
  refine (loopRun_step ['R', 'O', 'G', 'P'] 6 5 ['G', 'O', 'R', 'Y'] E65 [['B', 'G', 'O', 'R']] 2 1 E68 ['G', 'B', 'Y', 'O'] [['B', 'G', 'O', 'R'], ['G', 'O', 'R', 'Y']] rfl ((calc_eq_fastP ['R', 'O', 'G', 'P'] ['G', 'O', 'R', 'Y'] (by decide) (by decide)).trans (by decide)) (by decide) pe68 rfl nx68 (by decide) (by decide) (by decide)).trans ?_
  refine Eq.trans (step_lift ['G', 'O', 'R', 'Y'] (?_ : loopRun (honest ['R', 'O', 'G', 'P']) 5 (some ['G', 'B', 'Y', 'O']) E68 [['B', 'G', 'O', 'R'], ['G', 'O', 'R', 'Y']] = (RunResult.solved ['R', 'O', 'G', 'P'] 5, [['G', 'B', 'Y', 'O'], ['O', 'P', 'R', 'G'], ['R', 'O', 'G', 'P']]))) rfl
  refine (loopRun_step ['R', 'O', 'G', 'P'] 5 4 ['G', 'B', 'Y', 'O'] E68 [['B', 'G', 'O', 'R'], ['G', 'O', 'R', 'Y']] 2 0 E178 ['O', 'P', 'R', 'G'] [['B', 'G', 'O', 'R'], ['G', 'O', 'R', 'Y'], ['G', 'B', 'Y', 'O']] rfl ((calc_eq_fastP ['R', 'O', 'G', 'P'] ['G', 'B', 'Y', 'O'] (by decide) (by decide)).trans (by decide)) (by decide) pe178 rfl nx178 (by decide) (by decide) (by decide)).trans ?_
  refine Eq.trans (step_lift ['G', 'B', 'Y', 'O'] (?_ : loopRun (honest ['R', 'O', 'G', 'P']) 4 (some ['O', 'P', 'R', 'G']) E178 [['B', 'G', 'O', 'R'], ['G', 'O', 'R', 'Y'], ['G', 'B', 'Y', 'O']] = (RunResult.solved ['R', 'O', 'G', 'P'] 5, [['O', 'P', 'R', 'G'], ['R', 'O', 'G', 'P']]))) rfl
  refine (loopRun_step ['R', 'O', 'G', 'P'] 4 3 ['O', 'P', 'R', 'G'] E178 [['B', 'G', 'O', 'R'], ['G', 'O', 'R', 'Y'], ['G', 'B', 'Y', 'O']] 4 0 [['R', 'O', 'G', 'P']] ['R', 'O', 'G', 'P'] [['B', 'G', 'O', 'R'], ['G', 'O', 'R', 'Y'], ['G', 'B', 'Y', 'O'], ['O', 'P', 'R', 'G']] rfl ((calc_eq_fastP ['R', 'O', 'G', 'P'] ['O', 'P', 'R', 'G'] (by decide) (by decide)).trans (by decide)) (by decide) pe209 rfl (findNextGuess_singleton ['R', 'O', 'G', 'P'] [['B', 'G', 'O', 'R'], ['G', 'O', 'R', 'Y'], ['G', 'B', 'Y', 'O'], ['O', 'P', 'R', 'G']]) (by decide) (by decide) (by decide)).trans ?_
  refine Eq.trans (step_lift ['O', 'P', 'R', 'G'] (?_ : loopRun (honest ['R', 'O', 'G', 'P']) 3 (some ['R', 'O', 'G', 'P']) [['R', 'O', 'G', 'P']] [['B', 'G', 'O', 'R'], ['G', 'O', 'R', 'Y'], ['G', 'B', 'Y', 'O'], ['O', 'P', 'R', 'G']] = (RunResult.solved ['R', 'O', 'G', 'P'] 5, [['R', 'O', 'G', 'P']]))) rfl
  exact loopRun_last ['R', 'O', 'G', 'P'] 3 2 [['R', 'O', 'G', 'P']] [['B', 'G', 'O', 'R'], ['G', 'O', 'R', 'Y'], ['G', 'B', 'Y', 'O'], ['O', 'P', 'R', 'G']] rfl rfl (by decide)

lemma rs210 : loopRun (honest ['R', 'O', 'Y', 'B']) 7 none S0 [] =
    (RunResult.solved ['R', 'O', 'Y', 'B'] 5, [['B', 'G', 'O', 'R'], ['G', 'O', 'R', 'Y'], ['G', 'B', 'Y', 'O'], ['R', 'B', 'G', 'Y'], ['R', 'O', 'Y', 'B']]) := by
  refine (loopRun_none' (honest ['R', 'O', 'Y', 'B']) 7 S0 []).trans ?_
  refine (loopRun_step ['R', 'O', 'Y', 'B'] 7 6 ['B', 'G', 'O', 'R'] S0 [] 3 0 E65 ['G', 'O', 'R', 'Y'] [['B', 'G', 'O', 'R']] rfl ((calc_eq_fastP ['R', 'O', 'Y', 'B'] ['B', 'G', 'O', 'R'] (by decide) (by decide)).trans (by decide)) (by decide) pe65 rfl nx65 (by decide) (by decide) (by decide)).trans ?_
  refine Eq.trans (step_lift ['B', 'G', 'O', 'R'] (?_ : loopRun (honest ['R', 'O', 'Y', 'B']) 6 (some ['G', 'O', 'R', 'Y']) E65 [['B', 'G', 'O', 'R']] = (RunResult.solved ['R', 'O', 'Y', 'B'] 5, [['G', 'O', 'R', 'Y'], ['G', 'B', 'Y', 'O'], ['R', 'B', 'G', 'Y'], ['R', 'O', 'Y', 'B']]))) rfl
  refine (loopRun_step ['R', 'O', 'Y', 'B'] 6 5 ['G', 'O', 'R', 'Y'] E65 [['B', 'G', 'O', 'R']] 2 1 E68 ['G', 'B', 'Y', 'O'] [['B', 'G', 'O', 'R'], ['G', 'O', 'R', 'Y']] rfl ((calc_eq_fastP ['R', 'O', 'Y', 'B'] ['G', 'O', 'R', 'Y'] (by decide) (by decide)).trans (by decide)) (by decide) pe68 rfl nx68 (by decide) (by decide) (by decide)).trans ?_
  refine Eq.trans (step_lift ['G', 'O', 'R', 'Y'] (?_ : loopRun (honest ['R', 'O', 'Y', 'B']) 5 (some ['G', 'B', 'Y', 'O']) E68 [['B', 'G', 'O', 'R'], ['G', 'O', 'R', 'Y']] = (RunResult.solved ['R', 'O', 'Y', 'B'] 5, [['G', 'B', 'Y', 'O'], ['R', 'B', 'G', 'Y'], ['R', 'O', 'Y', 'B']]))) rfl
  refine (loopRun_step ['R', 'O', 'Y', 'B'] 5 4 ['G', 'B', 'Y', 'O'] E68 [['B', 'G', 'O', 'R'], ['G', 'O', 'R', 'Y']] 2 1 E184 ['R', 'B', 'G', 'Y'] [['B', 'G', 'O', 'R'], ['G', 'O', 'R', 'Y'], ['G', 'B', 'Y', 'O']] rfl ((calc_eq_fastP ['R', 'O', 'Y', 'B'] ['G', 'B', 'Y', 'O'] (by decide) (by decide)).trans (by decide)) (by decide) pe184 rfl nx184 (by decide) (by decide) (by decide)).trans ?_
  refine Eq.trans (step_lift ['G', 'B', 'Y', 'O'] (?_ : loopRun (honest ['R', 'O', 'Y', 'B']) 4 (some ['R', 'B', 'G', 'Y']) E184 [['B', 'G', 'O', 'R'], ['G', 'O', 'R', 'Y'], ['G', 'B', 'Y', 'O']] = (RunResult.solved ['R', 'O', 'Y', 'B'] 5, [['R', 'B', 'G', 'Y'], ['R', 'O', 'Y', 'B']]))) rfl
  refine (loopRun_step ['R', 'O', 'Y', 'B'] 4 3 ['R', 'B', 'G', 'Y'] E184 [['B', 'G', 'O', 'R'], ['G', 'O', 'R', 'Y'], ['G', 'B', 'Y', 'O']] 2 1 [['R', 'O', 'Y', 'B']] ['R', 'O', 'Y', 'B'] [['B', 'G', 'O', 'R'], ['G', 'O', 'R', 'Y'], ['G', 'B', 'Y', 'O'], ['R', 'B', 'G', 'Y']] rfl ((calc_eq_fastP ['R', 'O', 'Y', 'B'] ['R', 'B', 'G', 'Y'] (by decide) (by decide)).trans (by decide)) (by decide) pe210 rfl (findNextGuess_singleton ['R', 'O', 'Y', 'B'] [['B', 'G', 'O', 'R'], ['G', 'O', 'R', 'Y'], ['G', 'B', 'Y', 'O'], ['R', 'B', 'G', 'Y']]) (by decide) (by decide) (by decide)).trans ?_
  refine Eq.trans (step_lift ['R', 'B', 'G', 'Y'] (?_ : loopRun (honest ['R', 'O', 'Y', 'B']) 3 (some ['R', 'O', 'Y', 'B']) [['R', 'O', 'Y', 'B']] [['B', 'G', 'O', 'R'], ['G', 'O', 'R', 'Y'], ['G', 'B', 'Y', 'O'], ['R', 'B', 'G', 'Y']] = (RunResult.solved ['R', 'O', 'Y', 'B'] 5, [['R', 'O', 'Y', 'B']]))) rfl
  exact loopRun_last ['R', 'O', 'Y', 'B'] 3 2 [['R', 'O', 'Y', 'B']] [['B', 'G', 'O', 'R'], ['G', 'O', 'R', 'Y'], ['G', 'B', 'Y', 'O'], ['R', 'B', 'G', 'Y']] rfl rfl (by decide)

lemma rs211 : loopRun (honest ['R', 'O', 'Y', 'G']) 7 none S0 [] =
    (RunResult.solved ['R', 'O', 'Y', 'G'] 5, [['B', 'G', 'O', 'R'], ['G', 'O', 'R', 'Y'], ['G', 'R', 'Y', 'O'], ['O', 'R', 'G', 'Y'], ['R', 'O', 'Y', 'G']]) := by
  refine (loopRun_none' (honest ['R', 'O', 'Y', 'G']) 7 S0 []).trans ?_
  refine (loopRun_step ['R', 'O', 'Y', 'G'] 7 6 ['B', 'G', 'O', 'R'] S0 [] 3 0 E65 ['G', 'O', 'R', 'Y'] [['B', 'G', 'O', 'R']] rfl ((calc_eq_fastP ['R', 'O', 'Y', 'G'] ['B', 'G', 'O', 'R'] (by decide) (by decide)).trans (by decide)) (by decide) pe65 rfl nx65 (by decide) (by decide) (by decide)).trans ?_
  refine Eq.trans (step_lift ['B', 'G', 'O', 'R'] (?_ : loopRun (honest ['R', 'O', 'Y', 'G']) 6 (some ['G', 'O', 'R', 'Y']) E65 [['B', 'G', 'O', 'R']] = (RunResult.solved ['R', 'O', 'Y', 'G'] 5, [['G', 'O', 'R', 'Y'], ['G', 'R', 'Y', 'O'], ['O', 'R', 'G', 'Y'], ['R', 'O', 'Y', 'G']]))) rfl
  refine (loopRun_step ['R', 'O', 'Y', 'G'] 6 5 ['G', 'O', 'R', 'Y'] E65 [['B', 'G', 'O', 'R']] 3 1 E95 ['G', 'R', 'Y', 'O'] [['B', 'G', 'O', 'R'], ['G', 'O', 'R', 'Y']] rfl ((calc_eq_fastP ['R', 'O', 'Y', 'G'] ['G', 'O', 'R', 'Y'] (by decide) (by decide)).trans (by decide)) (by decide) pe95 rfl nx95 (by decide) (by decide) (by decide)).trans ?_
  refine Eq.trans (step_lift ['G', 'O', 'R', 'Y'] (?_ : loopRun (honest ['R', 'O', 'Y', 'G']) 5 (some ['G', 'R', 'Y', 'O']) E95 [['B', 'G', 'O', 'R'], ['G', 'O', 'R', 'Y']] = (RunResult.solved ['R', 'O', 'Y', 'G'] 5, [['G', 'R', 'Y', 'O'], ['O', 'R', 'G', 'Y'], ['R', 'O', 'Y', 'G']]))) rfl
  refine (loopRun_step ['R', 'O', 'Y', 'G'] 5 4 ['G', 'R', 'Y', 'O'] E95 [['B', 'G', 'O', 'R'], ['G', 'O', 'R', 'Y']] 3 1 E151 ['O', 'R', 'G', 'Y'] [['B', 'G', 'O', 'R'], ['G', 'O', 'R', 'Y'], ['G', 'R', 'Y', 'O']] rfl ((calc_eq_fastP ['R', 'O', 'Y', 'G'] ['G', 'R', 'Y', 'O'] (by decide) (by decide)).trans (by decide)) (by decide) pe151 rfl nx151 (by decide) (by decide) (by decide)).trans ?_
  refine Eq.trans (step_lift ['G', 'R', 'Y', 'O'] (?_ : loopRun (honest ['R', 'O', 'Y', 'G']) 4 (some ['O', 'R', 'G', 'Y']) E151 [['B', 'G', 'O', 'R'], ['G', 'O', 'R', 'Y'], ['G', 'R', 'Y', 'O']] = (RunResult.solved ['R', 'O', 'Y', 'G'] 5, [['O', 'R', 'G', 'Y'], ['R', 'O', 'Y', 'G']]))) rfl
  refine (loopRun_step ['R', 'O', 'Y', 'G'] 4 3 ['O', 'R', 'G', 'Y'] E151 [['B', 'G', 'O', 'R'], ['G', 'O', 'R', 'Y'], ['G', 'R', 'Y', 'O']] 4 0 [['R', 'O', 'Y', 'G']] ['R', 'O', 'Y', 'G'] [['B', 'G', 'O', 'R'], ['G', 'O', 'R', 'Y'], ['G', 'R', 'Y', 'O'], ['O', 'R', 'G', 'Y']] rfl ((calc_eq_fastP ['R', 'O', 'Y', 'G'] ['O', 'R', 'G', 'Y'] (by decide) (by decide)).trans (by decide)) (by decide) pe211 rfl (findNextGuess_singleton ['R', 'O', 'Y', 'G'] [['B', 'G', 'O', 'R'], ['G', 'O', 'R', 'Y'], ['G', 'R', 'Y', 'O'], ['O', 'R', 'G', 'Y']]) (by decide) (by decide) (by decide)).trans ?_
  refine Eq.trans (step_lift ['O', 'R', 'G', 'Y'] (?_ : loopRun (honest ['R', 'O', 'Y', 'G']) 3 (some ['R', 'O', 'Y', 'G']) [['R', 'O', 'Y', 'G']] [['B', 'G', 'O', 'R'], ['G', 'O', 'R', 'Y'], ['G', 'R', 'Y', 'O'], ['O', 'R', 'G', 'Y']] = (RunResult.solved ['R', 'O', 'Y', 'G'] 5, [['R', 'O', 'Y', 'G']]))) rfl
  exact loopRun_last ['R', 'O', 'Y', 'G'] 3 2 [['R', 'O', 'Y', 'G']] [['B', 'G', 'O', 'R'], ['G', 'O', 'R', 'Y'], ['G', 'R', 'Y', 'O'], ['O', 'R', 'G', 'Y']] rfl rfl (by decide)

lemma rs212 : loopRun (honest ['R', 'O', 'Y', 'P']) 7 none S0 [] =
    (RunResult.solved ['R', 'O', 'Y', 'P'] 5, [['B', 'G', 'O', 'R'], ['G', 'Y', 'R', 'P'], ['G', 'B', 'P', 'Y'], ['O', 'R', 'Y', 'P'], ['R', 'O', 'Y', 'P']]) := by
  refine (loopRun_none' (honest ['R', 'O', 'Y', 'P']) 7 S0 []).trans ?_
  refine (loopRun_step ['R', 'O', 'Y', 'P'] 7 6 ['B', 'G', 'O', 'R'] S0 [] 2 0 E72 ['G', 'Y', 'R', 'P'] [['B', 'G', 'O', 'R']] rfl ((calc_eq_fastP ['R', 'O', 'Y', 'P'] ['B', 'G', 'O', 'R'] (by decide) (by decide)).trans (by decide)) (by decide) pe72 rfl nx72 (by decide) (by decide) (by decide)).trans ?_
  refine Eq.trans (step_lift ['B', 'G', 'O', 'R'] (?_ : loopRun (honest ['R', 'O', 'Y', 'P']) 6 (some ['G', 'Y', 'R', 'P']) E72 [['B', 'G', 'O', 'R']] = (RunResult.solved ['R', 'O', 'Y', 'P'] 5, [['G', 'Y', 'R', 'P'], ['G', 'B', 'P', 'Y'], ['O', 'R', 'Y', 'P'], ['R', 'O', 'Y', 'P']]))) rfl
  refine (loopRun_step ['R', 'O', 'Y', 'P'] 6 5 ['G', 'Y', 'R', 'P'] E72 [['B', 'G', 'O', 'R']] 2 1 E78 ['G', 'B', 'P', 'Y'] [['B', 'G', 'O', 'R'], ['G', 'Y', 'R', 'P']] rfl ((calc_eq_fastP ['R', 'O', 'Y', 'P'] ['G', 'Y', 'R', 'P'] (by decide) (by decide)).trans (by decide)) (by decide) pe78 rfl nx78 (by decide) (by decide) (by decide)).trans ?_
  refine Eq.trans (step_lift ['G', 'Y', 'R', 'P'] (?_ : loopRun (honest ['R', 'O', 'Y', 'P']) 5 (some ['G', 'B', 'P', 'Y']) E78 [['B', 'G', 'O', 'R'], ['G', 'Y', 'R', 'P']] = (RunResult.solved ['R', 'O', 'Y', 'P'] 5, [['G', 'B', 'P', 'Y'], ['O', 'R', 'Y', 'P'], ['R', 'O', 'Y', 'P']]))) rfl
  refine (loopRun_step ['R', 'O', 'Y', 'P'] 5 4 ['G', 'B', 'P', 'Y'] E78 [['B', 'G', 'O', 'R'], ['G', 'Y', 'R', 'P']] 2 0 E155 ['O', 'R', 'Y', 'P'] [['B', 'G', 'O', 'R'], ['G', 'Y', 'R', 'P'], ['G', 'B', 'P', 'Y']] rfl ((calc_eq_fastP ['R', 'O', 'Y', 'P'] ['G', 'B', 'P', 'Y'] (by decide) (by decide)).trans (by decide)) (by decide) pe155 rfl nx155 (by decide) (by decide) (by decide)).trans ?_
  refine Eq.trans (step_lift ['G', 'B', 'P', 'Y'] (?_ : loopRun (honest ['R', 'O', 'Y', 'P']) 4 (some ['O', 'R', 'Y', 'P']) E155 [['B', 'G', 'O', 'R'], ['G', 'Y', 'R', 'P'], ['G', 'B', 'P', 'Y']] = (RunResult.solved ['R', 'O', 'Y', 'P'] 5, [['O', 'R', 'Y', 'P'], ['R', 'O', 'Y', 'P']]))) rfl
  refine (loopRun_step ['R', 'O', 'Y', 'P'] 4 3 ['O', 'R', 'Y', 'P'] E155 [['B', 'G', 'O', 'R'], ['G', 'Y', 'R', 'P'], ['G', 'B', 'P', 'Y']] 2 2 [['R', 'O', 'Y', 'P']] ['R', 'O', 'Y', 'P'] [['B', 'G', 'O', 'R'], ['G', 'Y', 'R', 'P'], ['G', 'B', 'P', 'Y'], ['O', 'R', 'Y', 'P']] rfl ((calc_eq_fastP ['R', 'O', 'Y', 'P'] ['O', 'R', 'Y', 'P'] (by decide) (by decide)).trans (by decide)) (by decide) pe212 rfl (findNextGuess_singleton ['R', 'O', 'Y', 'P'] [['B', 'G', 'O', 'R'], ['G', 'Y', 'R', 'P'], ['G', 'B', 'P', 'Y'], ['O', 'R', 'Y', 'P']]) (by decide) (by decide) (by decide)).trans ?_
  refine Eq.trans (step_lift ['O', 'R', 'Y', 'P'] (?_ : loopRun (honest ['R', 'O', 'Y', 'P']) 3 (some ['R', 'O', 'Y', 'P']) [['R', 'O', 'Y', 'P']] [['B', 'G', 'O', 'R'], ['G', 'Y', 'R', 'P'], ['G', 'B', 'P', 'Y'], ['O', 'R', 'Y', 'P']] = (RunResult.solved ['R', 'O', 'Y', 'P'] 5, [['R', 'O', 'Y', 'P']]))) rfl
  exact loopRun_last ['R', 'O', 'Y', 'P'] 3 2 [['R', 'O', 'Y', 'P']] [['B', 'G', 'O', 'R'], ['G', 'Y', 'R', 'P'], ['G', 'B', 'P', 'Y'], ['O', 'R', 'Y', 'P']] rfl rfl (by decide)

lemma rs213 : loopRun (honest ['R', 'O', 'P', 'B']) 7 none S0 [] =
    (RunResult.solved ['R', 'O', 'P', 'B'] 4, [['B', 'G', 'O', 'R'], ['G', 'O', 'R', 'Y'], ['R', 'O', 'B', 'P'], ['R', 'O', 'P', 'B']]) := by
  refine (loopRun_none' (honest ['R', 'O', 'P', 'B']) 7 S0 []).trans ?_
  refine (loopRun_step ['R', 'O', 'P', 'B'] 7 6 ['B', 'G', 'O', 'R'] S0 [] 3 0 E65 ['G', 'O', 'R', 'Y'] [['B', 'G', 'O', 'R']] rfl ((calc_eq_fastP ['R', 'O', 'P', 'B'] ['B', 'G', 'O', 'R'] (by decide) (by decide)).trans (by decide)) (by decide) pe65 rfl nx65 (by decide) (by decide) (by decide)).trans ?_
  refine Eq.trans (step_lift ['B', 'G', 'O', 'R'] (?_ : loopRun (honest ['R', 'O', 'P', 'B']) 6 (some ['G', 'O', 'R', 'Y']) E65 [['B', 'G', 'O', 'R']] = (RunResult.solved ['R', 'O', 'P', 'B'] 4, [['G', 'O', 'R', 'Y'], ['R', 'O', 'B', 'P'], ['R', 'O', 'P', 'B']]))) rfl
  refine (loopRun_step ['R', 'O', 'P', 'B'] 6 5 ['G', 'O', 'R', 'Y'] E65 [['B', 'G', 'O', 'R']] 1 1 E75 ['R', 'O', 'B', 'P'] [['B', 'G', 'O', 'R'], ['G', 'O', 'R', 'Y']] rfl ((calc_eq_fastP ['R', 'O', 'P', 'B'] ['G', 'O', 'R', 'Y'] (by decide) (by decide)).trans (by decide)) (by decide) pe75 rfl nx75 (by decide) (by decide) (by decide)).trans ?_
  refine Eq.trans (step_lift ['G', 'O', 'R', 'Y'] (?_ : loopRun (honest ['R', 'O', 'P', 'B']) 5 (some ['R', 'O', 'B', 'P']) E75 [['B', 'G', 'O', 'R'], ['G', 'O', 'R', 'Y']] = (RunResult.solved ['R', 'O', 'P', 'B'] 4, [['R', 'O', 'B', 'P'], ['R', 'O', 'P', 'B']]))) rfl
  refine (loopRun_step ['R', 'O', 'P', 'B'] 5 4 ['R', 'O', 'B', 'P'] E75 [['B', 'G', 'O', 'R'], ['G', 'O', 'R', 'Y']] 2 2 [['R', 'O', 'P', 'B']] ['R', 'O', 'P', 'B'] [['B', 'G', 'O', 'R'], ['G', 'O', 'R', 'Y'], ['R', 'O', 'B', 'P']] rfl ((calc_eq_fastP ['R', 'O', 'P', 'B'] ['R', 'O', 'B', 'P'] (by decide) (by decide)).trans (by decide)) (by decide) pe213 rfl (findNextGuess_singleton ['R', 'O', 'P', 'B'] [['B', 'G', 'O', 'R'], ['G', 'O', 'R', 'Y'], ['R', 'O', 'B', 'P']]) (by decide) (by decide) (by decide)).trans ?_
  refine Eq.trans (step_lift ['R', 'O', 'B', 'P'] (?_ : loopRun (honest ['R', 'O', 'P', 'B']) 4 (some ['R', 'O', 'P', 'B']) [['R', 'O', 'P', 'B']] [['B', 'G', 'O', 'R'], ['G', 'O', 'R', 'Y'], ['R', 'O', 'B', 'P']] = (RunResult.solved ['R', 'O', 'P', 'B'] 4, [['R', 'O', 'P', 'B']]))) rfl
  exact loopRun_last ['R', 'O', 'P', 'B'] 4 3 [['R', 'O', 'P', 'B']] [['B', 'G', 'O', 'R'], ['G', 'O', 'R', 'Y'], ['R', 'O', 'B', 'P']] rfl rfl (by decide)

lemma rs214 : loopRun (honest ['R', 'O', 'P', 'G']) 7 none S0 [] =
    (RunResult.solved ['R', 'O', 'P', 'G'] 5, [['B', 'G', 'O', 'R'], ['G', 'O', 'R', 'Y'], ['G', 'B', 'Y', 'O'], ['O', 'P', 'R', 'G'], ['R', 'O', 'P', 'G']]) := by
  refine (loopRun_none' (honest ['R', 'O', 'P', 'G']) 7 S0 []).trans ?_
  refine (loopRun_step ['R', 'O', 'P', 'G'] 7 6 ['B', 'G', 'O', 'R'] S0 [] 3 0 E65 ['G', 'O', 'R', 'Y'] [['B', 'G', 'O', 'R']] rfl ((calc_eq_fastP ['R', 'O', 'P', 'G'] ['B', 'G', 'O', 'R'] (by decide) (by decide)).trans (by decide)) (by decide) pe65 rfl nx65 (by decide) (by decide) (by decide)).trans ?_
  refine Eq.trans (step_lift ['B', 'G', 'O', 'R'] (?_ : loopRun (honest ['R', 'O', 'P', 'G']) 6 (some ['G', 'O', 'R', 'Y']) E65 [['B', 'G', 'O', 'R']] = (RunResult.solved ['R', 'O', 'P', 'G'] 5, [['G', 'O', 'R', 'Y'], ['G', 'B', 'Y', 'O'], ['O', 'P', 'R', 'G'], ['R', 'O', 'P', 'G']]))) rfl
  refine (loopRun_step ['R', 'O', 'P', 'G'] 6 5 ['G', 'O', 'R', 'Y'] E65 [['B', 'G', 'O', 'R']] 2 1 E68 ['G', 'B', 'Y', 'O'] [['B', 'G', 'O', 'R'], ['G', 'O', 'R', 'Y']] rfl ((calc_eq_fastP ['R', 'O', 'P', 'G'] ['G', 'O', 'R', 'Y'] (by decide) (by decide)).trans (by decide)) (by decide) pe68 rfl nx68 (by decide) (by decide) (by decide)).trans ?_
  refine Eq.trans (step_lift ['G', 'O', 'R', 'Y'] (?_ : loopRun (honest ['R', 'O', 'P', 'G']) 5 (some ['G', 'B', 'Y', 'O']) E68 [['B', 'G', 'O', 'R'], ['G', 'O', 'R', 'Y']] = (RunResult.solved ['R', 'O', 'P', 'G'] 5, [['G', 'B', 'Y', 'O'], ['O', 'P', 'R', 'G'], ['R', 'O', 'P', 'G']]))) rfl
  refine (loopRun_step ['R', 'O', 'P', 'G'] 5 4 ['G', 'B', 'Y', 'O'] E68 [['B', 'G', 'O', 'R'], ['G', 'O', 'R', 'Y']] 2 0 E178 ['O', 'P', 'R', 'G'] [['B', 'G', 'O', 'R'], ['G', 'O', 'R', 'Y'], ['G', 'B', 'Y', 'O']] rfl ((calc_eq_fastP ['R', 'O', 'P', 'G'] ['G', 'B', 'Y', 'O'] (by decide) (by decide)).trans (by decide)) (by decide) pe178 rfl nx178 (by decide) (by decide) (by decide)).trans ?_
  refine Eq.trans (step_lift ['G', 'B', 'Y', 'O'] (?_ : loopRun (honest ['R', 'O', 'P', 'G']) 4 (some ['O', 'P', 'R', 'G']) E178 [['B', 'G', 'O', 'R'], ['G', 'O', 'R', 'Y'], ['G', 'B', 'Y', 'O']] = (RunResult.solved ['R', 'O', 'P', 'G'] 5, [['O', 'P', 'R', 'G'], ['R', 'O', 'P', 'G']]))) rfl
  refine (loopRun_step ['R', 'O', 'P', 'G'] 4 3 ['O', 'P', 'R', 'G'] E178 [['B', 'G', 'O', 'R'], ['G', 'O', 'R', 'Y'], ['G', 'B', 'Y', 'O']] 3 1 [['R', 'O', 'P', 'G']] ['R', 'O', 'P', 'G'] [['B', 'G', 'O', 'R'], ['G', 'O', 'R', 'Y'], ['G', 'B', 'Y', 'O'], ['O', 'P', 'R', 'G']] rfl ((calc_eq_fastP ['R', 'O', 'P', 'G'] ['O', 'P', 'R', 'G'] (by decide) (by decide)).trans (by decide)) (by decide) pe214 rfl (findNextGuess_singleton ['R', 'O', 'P', 'G'] [['B', 'G', 'O', 'R'], ['G', 'O', 'R', 'Y'], ['G', 'B', 'Y', 'O'], ['O', 'P', 'R', 'G']]) (by decide) (by decide) (by decide)).trans ?_
  refine Eq.trans (step_lift ['O', 'P', 'R', 'G'] (?_ : loopRun (honest ['R', 'O', 'P', 'G']) 3 (some ['R', 'O', 'P', 'G']) [['R', 'O', 'P', 'G']] [['B', 'G', 'O', 'R'], ['G', 'O', 'R', 'Y'], ['G', 'B', 'Y', 'O'], ['O', 'P', 'R', 'G']] = (RunResult.solved ['R', 'O', 'P', 'G'] 5, [['R', 'O', 'P', 'G']]))) rfl
  exact loopRun_last ['R', 'O', 'P', 'G'] 3 2 [['R', 'O', 'P', 'G']] [['B', 'G', 'O', 'R'], ['G', 'O', 'R', 'Y'], ['G', 'B', 'Y', 'O'], ['O', 'P', 'R', 'G']] rfl rfl (by decide)

lemma rs215 : loopRun (honest ['R', 'O', 'P', 'Y']) 7 none S0 [] =
    (RunResult.solved ['R', 'O', 'P', 'Y'] 4, [['B', 'G', 'O', 'R'], ['G', 'Y', 'R', 'P'], ['R', 'B', 'P', 'Y'], ['R', 'O', 'P', 'Y']]) := by
  refine (loopRun_none' (honest ['R', 'O', 'P', 'Y']) 7 S0 []).trans ?_
  refine (loopRun_step ['R', 'O', 'P', 'Y'] 7 6 ['B', 'G', 'O', 'R'] S0 [] 2 0 E72 ['G', 'Y', 'R', 'P'] [['B', 'G', 'O', 'R']] rfl ((calc_eq_fastP ['R', 'O', 'P', 'Y'] ['B', 'G', 'O', 'R'] (by decide) (by decide)).trans (by decide)) (by decide) pe72 rfl nx72 (by decide) (by decide) (by decide)).trans ?_
  refine Eq.trans (step_lift ['B', 'G', 'O', 'R'] (?_ : loopRun (honest ['R', 'O', 'P', 'Y']) 6 (some ['G', 'Y', 'R', 'P']) E72 [['B', 'G', 'O', 'R']] = (RunResult.solved ['R', 'O', 'P', 'Y'] 4, [['G', 'Y', 'R', 'P'], ['R', 'B', 'P', 'Y'], ['R', 'O', 'P', 'Y']]))) rfl
  refine (loopRun_step ['R', 'O', 'P', 'Y'] 6 5 ['G', 'Y', 'R', 'P'] E72 [['B', 'G', 'O', 'R']] 3 0 E158 ['R', 'B', 'P', 'Y'] [['B', 'G', 'O', 'R'], ['G', 'Y', 'R', 'P']] rfl ((calc_eq_fastP ['R', 'O', 'P', 'Y'] ['G', 'Y', 'R', 'P'] (by decide) (by decide)).trans (by decide)) (by decide) pe158 rfl nx158 (by decide) (by decide) (by decide)).trans ?_
  refine Eq.trans (step_lift ['G', 'Y', 'R', 'P'] (?_ : loopRun (honest ['R', 'O', 'P', 'Y']) 5 (some ['R', 'B', 'P', 'Y']) E158 [['B', 'G', 'O', 'R'], ['G', 'Y', 'R', 'P']] = (RunResult.solved ['R', 'O', 'P', 'Y'] 4, [['R', 'B', 'P', 'Y'], ['R', 'O', 'P', 'Y']]))) rfl
  refine (loopRun_step ['R', 'O', 'P', 'Y'] 5 4 ['R', 'B', 'P', 'Y'] E158 [['B', 'G', 'O', 'R'], ['G', 'Y', 'R', 'P']] 0 3 [['R', 'O', 'P', 'Y']] ['R', 'O', 'P', 'Y'] [['B', 'G', 'O', 'R'], ['G', 'Y', 'R', 'P'], ['R', 'B', 'P', 'Y']] rfl ((calc_eq_fastP ['R', 'O', 'P', 'Y'] ['R', 'B', 'P', 'Y'] (by decide) (by decide)).trans (by decide)) (by decide) pe215 rfl (findNextGuess_singleton ['R', 'O', 'P', 'Y'] [['B', 'G', 'O', 'R'], ['G', 'Y', 'R', 'P'], ['R', 'B', 'P', 'Y']]) (by decide) (by decide) (by decide)).trans ?_
  refine Eq.trans (step_lift ['R', 'B', 'P', 'Y'] (?_ : loopRun (honest ['R', 'O', 'P', 'Y']) 4 (some ['R', 'O', 'P', 'Y']) [['R', 'O', 'P', 'Y']] [['B', 'G', 'O', 'R'], ['G', 'Y', 'R', 'P'], ['R', 'B', 'P', 'Y']] = (RunResult.solved ['R', 'O', 'P', 'Y'] 4, [['R', 'O', 'P', 'Y']]))) rfl
  exact loopRun_last ['R', 'O', 'P', 'Y'] 4 3 [['R', 'O', 'P', 'Y']] [['B', 'G', 'O', 'R'], ['G', 'Y', 'R', 'P'], ['R', 'B', 'P', 'Y']] rfl rfl (by decide)

lemma rs216 : loopRun (honest ['R', 'Y', 'B', 'G']) 7 none S0 [] =
    (RunResult.solved ['R', 'Y', 'B', 'G'] 4, [['B', 'G', 'O', 'R'], ['G', 'O', 'R', 'Y'], ['O', 'B', 'Y', 'G'], ['R', 'Y', 'B', 'G']]) := by
  refine (loopRun_none' (honest ['R', 'Y', 'B', 'G']) 7 S0 []).trans ?_
  refine (loopRun_step ['R', 'Y', 'B', 'G'] 7 6 ['B', 'G', 'O', 'R'] S0 [] 3 0 E65 ['G', 'O', 'R', 'Y'] [['B', 'G', 'O', 'R']] rfl ((calc_eq_fastP ['R', 'Y', 'B', 'G'] ['B', 'G', 'O', 'R'] (by decide) (by decide)).trans (by decide)) (by decide) pe65 rfl nx65 (by decide) (by decide) (by decide)).trans ?_
  refine Eq.trans (step_lift ['B', 'G', 'O', 'R'] (?_ : loopRun (honest ['R', 'Y', 'B', 'G']) 6 (some ['G', 'O', 'R', 'Y']) E65 [['B', 'G', 'O', 'R']] = (RunResult.solved ['R', 'Y', 'B', 'G'] 4, [['G', 'O', 'R', 'Y'], ['O', 'B', 'Y', 'G'], ['R', 'Y', 'B', 'G']]))) rfl
  refine (loopRun_step ['R', 'Y', 'B', 'G'] 6 5 ['G', 'O', 'R', 'Y'] E65 [['B', 'G', 'O', 'R']] 3 0 E128 ['O', 'B', 'Y', 'G'] [['B', 'G', 'O', 'R'], ['G', 'O', 'R', 'Y']] rfl ((calc_eq_fastP ['R', 'Y', 'B', 'G'] ['G', 'O', 'R', 'Y'] (by decide) (by decide)).trans (by decide)) (by decide) pe128 rfl nx128 (by decide) (by decide) (by decide)).trans ?_
  refine Eq.trans (step_lift ['G', 'O', 'R', 'Y'] (?_ : loopRun (honest ['R', 'Y', 'B', 'G']) 5 (some ['O', 'B', 'Y', 'G']) E128 [['B', 'G', 'O', 'R'], ['G', 'O', 'R', 'Y']] = (RunResult.solved ['R', 'Y', 'B', 'G'] 4, [['O', 'B', 'Y', 'G'], ['R', 'Y', 'B', 'G']]))) rfl
  refine (loopRun_step ['R', 'Y', 'B', 'G'] 5 4 ['O', 'B', 'Y', 'G'] E128 [['B', 'G', 'O', 'R'], ['G', 'O', 'R', 'Y']] 2 1 E216 ['R', 'Y', 'B', 'G'] [['B', 'G', 'O', 'R'], ['G', 'O', 'R', 'Y'], ['O', 'B', 'Y', 'G']] rfl ((calc_eq_fastP ['R', 'Y', 'B', 'G'] ['O', 'B', 'Y', 'G'] (by decide) (by decide)).trans (by decide)) (by decide) pe216 rfl nx216 (by decide) (by decide) (by decide)).trans ?_
  refine Eq.trans (step_lift ['O', 'B', 'Y', 'G'] (?_ : loopRun (honest ['R', 'Y', 'B', 'G']) 4 (some ['R', 'Y', 'B', 'G']) E216 [['B', 'G', 'O', 'R'], ['G', 'O', 'R', 'Y'], ['O', 'B', 'Y', 'G']] = (RunResult.solved ['R', 'Y', 'B', 'G'] 4, [['R', 'Y', 'B', 'G']]))) rfl
  exact loopRun_last ['R', 'Y', 'B', 'G'] 4 3 E216 [['B', 'G', 'O', 'R'], ['G', 'O', 'R', 'Y'], ['O', 'B', 'Y', 'G']] rfl rfl (by decide)

lemma rs217 : loopRun (honest ['R', 'Y', 'B', 'O']) 7 none S0 [] =
    (RunResult.solved ['R', 'Y', 'B', 'O'] 4, [['B', 'G', 'O', 'R'], ['G', 'O', 'R', 'Y'], ['O', 'B', 'Y', 'G'], ['R', 'Y', 'B', 'O']]) := by
  refine (loopRun_none' (honest ['R', 'Y', 'B', 'O']) 7 S0 []).trans ?_
  refine (loopRun_step ['R', 'Y', 'B', 'O'] 7 6 ['B', 'G', 'O', 'R'] S0 [] 3 0 E65 ['G', 'O', 'R', 'Y'] [['B', 'G', 'O', 'R']] rfl ((calc_eq_fastP ['R', 'Y', 'B', 'O'] ['B', 'G', 'O', 'R'] (by decide) (by decide)).trans (by decide)) (by decide) pe65 rfl nx65 (by decide) (by decide) (by decide)).trans ?_
  refine Eq.trans (step_lift ['B', 'G', 'O', 'R'] (?_ : loopRun (honest ['R', 'Y', 'B', 'O']) 6 (some ['G', 'O', 'R', 'Y']) E65 [['B', 'G', 'O', 'R']] = (RunResult.solved ['R', 'Y', 'B', 'O'] 4, [['G', 'O', 'R', 'Y'], ['O', 'B', 'Y', 'G'], ['R', 'Y', 'B', 'O']]))) rfl
  refine (loopRun_step ['R', 'Y', 'B', 'O'] 6 5 ['G', 'O', 'R', 'Y'] E65 [['B', 'G', 'O', 'R']] 3 0 E128 ['O', 'B', 'Y', 'G'] [['B', 'G', 'O', 'R'], ['G', 'O', 'R', 'Y']] rfl ((calc_eq_fastP ['R', 'Y', 'B', 'O'] ['G', 'O', 'R', 'Y'] (by decide) (by decide)).trans (by decide)) (by decide) pe128 rfl nx128 (by decide) (by decide) (by decide)).trans ?_
  refine Eq.trans (step_lift ['G', 'O', 'R', 'Y'] (?_ : loopRun (honest ['R', 'Y', 'B', 'O']) 5 (some ['O', 'B', 'Y', 'G']) E128 [['B', 'G', 'O', 'R'], ['G', 'O', 'R', 'Y']] = (RunResult.solved ['R', 'Y', 'B', 'O'] 4, [['O', 'B', 'Y', 'G'], ['R', 'Y', 'B', 'O']]))) rfl
  refine (loopRun_step ['R', 'Y', 'B', 'O'] 5 4 ['O', 'B', 'Y', 'G'] E128 [['B', 'G', 'O', 'R'], ['G', 'O', 'R', 'Y']] 3 0 E217 ['R', 'Y', 'B', 'O'] [['B', 'G', 'O', 'R'], ['G', 'O', 'R', 'Y'], ['O', 'B', 'Y', 'G']] rfl ((calc_eq_fastP ['R', 'Y', 'B', 'O'] ['O', 'B', 'Y', 'G'] (by decide) (by decide)).trans (by decide)) (by decide) pe217 rfl nx217 (by decide) (by decide) (by decide)).trans ?_
  refine Eq.trans (step_lift ['O', 'B', 'Y', 'G'] (?_ : loopRun (honest ['R', 'Y', 'B', 'O']) 4 (some ['R', 'Y', 'B', 'O']) E217 [['B', 'G', 'O', 'R'], ['G', 'O', 'R', 'Y'], ['O', 'B', 'Y', 'G']] = (RunResult.solved ['R', 'Y', 'B', 'O'] 4, [['R', 'Y', 'B', 'O']]))) rfl
  exact loopRun_last ['R', 'Y', 'B', 'O'] 4 3 E217 [['B', 'G', 'O', 'R'], ['G', 'O', 'R', 'Y'], ['O', 'B', 'Y', 'G']] rfl rfl (by decide)

lemma rs218 : loopRun (honest ['R', 'Y', 'B', 'P']) 7 none S0 [] =
    (RunResult.solved ['R', 'Y', 'B', 'P'] 4, [['B', 'G', 'O', 'R'], ['G', 'Y', 'R', 'P'], ['G', 'O', 'Y', 'P'], ['R', 'Y', 'B', 'P']]) := by
  refine (loopRun_none' (honest ['R', 'Y', 'B', 'P']) 7 S0 []).trans ?_
  refine (loopRun_step ['R', 'Y', 'B', 'P'] 7 6 ['B', 'G', 'O', 'R'] S0 [] 2 0 E72 ['G', 'Y', 'R', 'P'] [['B', 'G', 'O', 'R']] rfl ((calc_eq_fastP ['R', 'Y', 'B', 'P'] ['B', 'G', 'O', 'R'] (by decide) (by decide)).trans (by decide)) (by decide) pe72 rfl nx72 (by decide) (by decide) (by decide)).trans ?_
  refine Eq.trans (step_lift ['B', 'G', 'O', 'R'] (?_ : loopRun (honest ['R', 'Y', 'B', 'P']) 6 (some ['G', 'Y', 'R', 'P']) E72 [['B', 'G', 'O', 'R']] = (RunResult.solved ['R', 'Y', 'B', 'P'] 4, [['G', 'Y', 'R', 'P'], ['G', 'O', 'Y', 'P'], ['R', 'Y', 'B', 'P']]))) rfl
  refine (loopRun_step ['R', 'Y', 'B', 'P'] 6 5 ['G', 'Y', 'R', 'P'] E72 [['B', 'G', 'O', 'R']] 1 2 E73 ['G', 'O', 'Y', 'P'] [['B', 'G', 'O', 'R'], ['G', 'Y', 'R', 'P']] rfl ((calc_eq_fastP ['R', 'Y', 'B', 'P'] ['G', 'Y', 'R', 'P'] (by decide) (by decide)).trans (by decide)) (by decide) pe73 rfl nx73 (by decide) (by decide) (by decide)).trans ?_
  refine Eq.trans (step_lift ['G', 'Y', 'R', 'P'] (?_ : loopRun (honest ['R', 'Y', 'B', 'P']) 5 (some ['G', 'O', 'Y', 'P']) E73 [['B', 'G', 'O', 'R'], ['G', 'Y', 'R', 'P']] = (RunResult.solved ['R', 'Y', 'B', 'P'] 4, [['G', 'O', 'Y', 'P'], ['R', 'Y', 'B', 'P']]))) rfl
  refine (loopRun_step ['R', 'Y', 'B', 'P'] 5 4 ['G', 'O', 'Y', 'P'] E73 [['B', 'G', 'O', 'R'], ['G', 'Y', 'R', 'P']] 1 1 E218 ['R', 'Y', 'B', 'P'] [['B', 'G', 'O', 'R'], ['G', 'Y', 'R', 'P'], ['G', 'O', 'Y', 'P']] rfl ((calc_eq_fastP ['R', 'Y', 'B', 'P'] ['G', 'O', 'Y', 'P'] (by decide) (by decide)).trans (by decide)) (by decide) pe218 rfl nx218 (by decide) (by decide) (by decide)).trans ?_
  refine Eq.trans (step_lift ['G', 'O', 'Y', 'P'] (?_ : loopRun (honest ['R', 'Y', 'B', 'P']) 4 (some ['R', 'Y', 'B', 'P']) E218 [['B', 'G', 'O', 'R'], ['G', 'Y', 'R', 'P'], ['G', 'O', 'Y', 'P']] = (RunResult.solved ['R', 'Y', 'B', 'P'] 4, [['R', 'Y', 'B', 'P']]))) rfl
  exact loopRun_last ['R', 'Y', 'B', 'P'] 4 3 E218 [['B', 'G', 'O', 'R'], ['G', 'Y', 'R', 'P'], ['G', 'O', 'Y', 'P']] rfl rfl (by decide)

lemma rs219 : loopRun (honest ['R', 'Y', 'G', 'B']) 7 none S0 [] =
    (RunResult.solved ['R', 'Y', 'G', 'B'] 5, [['B', 'G', 'O', 'R'], ['G', 'O', 'R', 'Y'], ['O', 'B', 'Y', 'G'], ['R', 'Y', 'B', 'O'], ['R', 'Y', 'G', 'B']]) := by
  refine (loopRun_none' (honest ['R', 'Y', 'G', 'B']) 7 S0 []).trans ?_
  refine (loopRun_step ['R', 'Y', 'G', 'B'] 7 6 ['B', 'G', 'O', 'R'] S0 [] 3 0 E65 ['G', 'O', 'R', 'Y'] [['B', 'G', 'O', 'R']] rfl ((calc_eq_fastP ['R', 'Y', 'G', 'B'] ['B', 'G', 'O', 'R'] (by decide) (by decide)).trans (by decide)) (by decide) pe65 rfl nx65 (by decide) (by decide) (by decide)).trans ?_
  refine Eq.trans (step_lift ['B', 'G', 'O', 'R'] (?_ : loopRun (honest ['R', 'Y', 'G', 'B']) 6 (some ['G', 'O', 'R', 'Y']) E65 [['B', 'G', 'O', 'R']] = (RunResult.solved ['R', 'Y', 'G', 'B'] 5, [['G', 'O', 'R', 'Y'], ['O', 'B', 'Y', 'G'], ['R', 'Y', 'B', 'O'], ['R', 'Y', 'G', 'B']]))) rfl
  refine (loopRun_step ['R', 'Y', 'G', 'B'] 6 5 ['G', 'O', 'R', 'Y'] E65 [['B', 'G', 'O', 'R']] 3 0 E128 ['O', 'B', 'Y', 'G'] [['B', 'G', 'O', 'R'], ['G', 'O', 'R', 'Y']] rfl ((calc_eq_fastP ['R', 'Y', 'G', 'B'] ['G', 'O', 'R', 'Y'] (by decide) (by decide)).trans (by decide)) (by decide) pe128 rfl nx128 (by decide) (by decide) (by decide)).trans ?_
  refine Eq.trans (step_lift ['G', 'O', 'R', 'Y'] (?_ : loopRun (honest ['R', 'Y', 'G', 'B']) 5 (some ['O', 'B', 'Y', 'G']) E128 [['B', 'G', 'O', 'R'], ['G', 'O', 'R', 'Y']] = (RunResult.solved ['R', 'Y', 'G', 'B'] 5, [['O', 'B', 'Y', 'G'], ['R', 'Y', 'B', 'O'], ['R', 'Y', 'G', 'B']]))) rfl
  refine (loopRun_step ['R', 'Y', 'G', 'B'] 5 4 ['O', 'B', 'Y', 'G'] E128 [['B', 'G', 'O', 'R'], ['G', 'O', 'R', 'Y']] 3 0 E217 ['R', 'Y', 'B', 'O'] [['B', 'G', 'O', 'R'], ['G', 'O', 'R', 'Y'], ['O', 'B', 'Y', 'G']] rfl ((calc_eq_fastP ['R', 'Y', 'G', 'B'] ['O', 'B', 'Y', 'G'] (by decide) (by decide)).trans (by decide)) (by decide) pe217 rfl nx217 (by decide) (by decide) (by decide)).trans ?_
  refine Eq.trans (step_lift ['O', 'B', 'Y', 'G'] (?_ : loopRun (honest ['R', 'Y', 'G', 'B']) 4 (some ['R', 'Y', 'B', 'O']) E217 [['B', 'G', 'O', 'R'], ['G', 'O', 'R', 'Y'], ['O', 'B', 'Y', 'G']] = (RunResult.solved ['R', 'Y', 'G', 'B'] 5, [['R', 'Y', 'B', 'O'], ['R', 'Y', 'G', 'B']]))) rfl
  refine (loopRun_step ['R', 'Y', 'G', 'B'] 4 3 ['R', 'Y', 'B', 'O'] E217 [['B', 'G', 'O', 'R'], ['G', 'O', 'R', 'Y'], ['O', 'B', 'Y', 'G']] 1 2 [['R', 'Y', 'G', 'B']] ['R', 'Y', 'G', 'B'] [['B', 'G', 'O', 'R'], ['G', 'O', 'R', 'Y'], ['O', 'B', 'Y', 'G'], ['R', 'Y', 'B', 'O']] rfl ((calc_eq_fastP ['R', 'Y', 'G', 'B'] ['R', 'Y', 'B', 'O'] (by decide) (by decide)).trans (by decide)) (by decide) pe219 rfl (findNextGuess_singleton ['R', 'Y', 'G', 'B'] [['B', 'G', 'O', 'R'], ['G', 'O', 'R', 'Y'], ['O', 'B', 'Y', 'G'], ['R', 'Y', 'B', 'O']]) (by decide) (by decide) (by decide)).trans ?_
  refine Eq.trans (step_lift ['R', 'Y', 'B', 'O'] (?_ : loopRun (honest ['R', 'Y', 'G', 'B']) 3 (some ['R', 'Y', 'G', 'B']) [['R', 'Y', 'G', 'B']] [['B', 'G', 'O', 'R'], ['G', 'O', 'R', 'Y'], ['O', 'B', 'Y', 'G'], ['R', 'Y', 'B', 'O']] = (RunResult.solved ['R', 'Y', 'G', 'B'] 5, [['R', 'Y', 'G', 'B']]))) rfl
  exact loopRun_last ['R', 'Y', 'G', 'B'] 3 2 [['R', 'Y', 'G', 'B']] [['B', 'G', 'O', 'R'], ['G', 'O', 'R', 'Y'], ['O', 'B', 'Y', 'G'], ['R', 'Y', 'B', 'O']] rfl rfl (by decide)

lemma rs220 : loopRun (honest ['R', 'Y', 'G', 'O']) 7 none S0 [] =
    (RunResult.solved ['R', 'Y', 'G', 'O'] 4, [['B', 'G', 'O', 'R'], ['G', 'O', 'R', 'Y'], ['O', 'R', 'Y', 'G'], ['R', 'Y', 'G', 'O']]) := by
  refine (loopRun_none' (honest ['R', 'Y', 'G', 'O']) 7 S0 []).trans ?_
  refine (loopRun_step ['R', 'Y', 'G', 'O'] 7 6 ['B', 'G', 'O', 'R'] S0 [] 3 0 E65 ['G', 'O', 'R', 'Y'] [['B', 'G', 'O', 'R']] rfl ((calc_eq_fastP ['R', 'Y', 'G', 'O'] ['B', 'G', 'O', 'R'] (by decide) (by decide)).trans (by decide)) (by decide) pe65 rfl nx65 (by decide) (by decide) (by decide)).trans ?_
  refine Eq.trans (step_lift ['B', 'G', 'O', 'R'] (?_ : loopRun (honest ['R', 'Y', 'G', 'O']) 6 (some ['G', 'O', 'R', 'Y']) E65 [['B', 'G', 'O', 'R']] = (RunResult.solved ['R', 'Y', 'G', 'O'] 4, [['G', 'O', 'R', 'Y'], ['O', 'R', 'Y', 'G'], ['R', 'Y', 'G', 'O']]))) rfl
  refine (loopRun_step ['R', 'Y', 'G', 'O'] 6 5 ['G', 'O', 'R', 'Y'] E65 [['B', 'G', 'O', 'R']] 4 0 E154 ['O', 'R', 'Y', 'G'] [['B', 'G', 'O', 'R'], ['G', 'O', 'R', 'Y']] rfl ((calc_eq_fastP ['R', 'Y', 'G', 'O'] ['G', 'O', 'R', 'Y'] (by decide) (by decide)).trans (by decide)) (by decide) pe154 rfl nx154 (by decide) (by decide) (by decide)).trans ?_
  refine Eq.trans (step_lift ['G', 'O', 'R', 'Y'] (?_ : loopRun (honest ['R', 'Y', 'G', 'O']) 5 (some ['O', 'R', 'Y', 'G']) E154 [['B', 'G', 'O', 'R'], ['G', 'O', 'R', 'Y']] = (RunResult.solved ['R', 'Y', 'G', 'O'] 4, [['O', 'R', 'Y', 'G'], ['R', 'Y', 'G', 'O']]))) rfl
  refine (loopRun_step ['R', 'Y', 'G', 'O'] 5 4 ['O', 'R', 'Y', 'G'] E154 [['B', 'G', 'O', 'R'], ['G', 'O', 'R', 'Y']] 4 0 [['R', 'Y', 'G', 'O']] ['R', 'Y', 'G', 'O'] [['B', 'G', 'O', 'R'], ['G', 'O', 'R', 'Y'], ['O', 'R', 'Y', 'G']] rfl ((calc_eq_fastP ['R', 'Y', 'G', 'O'] ['O', 'R', 'Y', 'G'] (by decide) (by decide)).trans (by decide)) (by decide) pe220 rfl (findNextGuess_singleton ['R', 'Y', 'G', 'O'] [['B', 'G', 'O', 'R'], ['G', 'O', 'R', 'Y'], ['O', 'R', 'Y', 'G']]) (by decide) (by decide) (by decide)).trans ?_
  refine Eq.trans (step_lift ['O', 'R', 'Y', 'G'] (?_ : loopRun (honest ['R', 'Y', 'G', 'O']) 4 (some ['R', 'Y', 'G', 'O']) [['R', 'Y', 'G', 'O']] [['B', 'G', 'O', 'R'], ['G', 'O', 'R', 'Y'], ['O', 'R', 'Y', 'G']] = (RunResult.solved ['R', 'Y', 'G', 'O'] 4, [['R', 'Y', 'G', 'O']]))) rfl
  exact loopRun_last ['R', 'Y', 'G', 'O'] 4 3 [['R', 'Y', 'G', 'O']] [['B', 'G', 'O', 'R'], ['G', 'O', 'R', 'Y'], ['O', 'R', 'Y', 'G']] rfl rfl (by decide)

lemma rs221 : loopRun (honest ['R', 'Y', 'G', 'P']) 7 none S0 [] =
    (RunResult.solved ['R', 'Y', 'G', 'P'] 5, [['B', 'G', 'O', 'R'], ['G', 'Y', 'R', 'P'], ['G', 'R', 'Y', 'P'], ['G', 'P', 'R', 'Y'], ['R', 'Y', 'G', 'P']]) := by
  refine (loopRun_none' (honest ['R', 'Y', 'G', 'P']) 7 S0 []).trans ?_
  refine (loopRun_step ['R', 'Y', 'G', 'P'] 7 6 ['B', 'G', 'O', 'R'] S0 [] 2 0 E72 ['G', 'Y', 'R', 'P'] [['B', 'G', 'O', 'R']] rfl ((calc_eq_fastP ['R', 'Y', 'G', 'P'] ['B', 'G', 'O', 'R'] (by decide) (by decide)).trans (by decide)) (by decide) pe72 rfl nx72 (by decide) (by decide) (by decide)).trans ?_
  refine Eq.trans (step_lift ['B', 'G', 'O', 'R'] (?_ : loopRun (honest ['R', 'Y', 'G', 'P']) 6 (some ['G', 'Y', 'R', 'P']) E72 [['B', 'G', 'O', 'R']] = (RunResult.solved ['R', 'Y', 'G', 'P'] 5, [['G', 'Y', 'R', 'P'], ['G', 'R', 'Y', 'P'], ['G', 'P', 'R', 'Y'], ['R', 'Y', 'G', 'P']]))) rfl
  refine (loopRun_step ['R', 'Y', 'G', 'P'] 6 5 ['G', 'Y', 'R', 'P'] E72 [['B', 'G', 'O', 'R']] 2 2 E96 ['G', 'R', 'Y', 'P'] [['B', 'G', 'O', 'R'], ['G', 'Y', 'R', 'P']] rfl ((calc_eq_fastP ['R', 'Y', 'G', 'P'] ['G', 'Y', 'R', 'P'] (by decide) (by decide)).trans (by decide)) (by decide) pe96 rfl nx96 (by decide) (by decide) (by decide)).trans ?_
  refine Eq.trans (step_lift ['G', 'Y', 'R', 'P'] (?_ : loopRun (honest ['R', 'Y', 'G', 'P']) 5 (some ['G', 'R', 'Y', 'P']) E96 [['B', 'G', 'O', 'R'], ['G', 'Y', 'R', 'P']] = (RunResult.solved ['R', 'Y', 'G', 'P'] 5, [['G', 'R', 'Y', 'P'], ['G', 'P', 'R', 'Y'], ['R', 'Y', 'G', 'P']]))) rfl
  refine (loopRun_step ['R', 'Y', 'G', 'P'] 5 4 ['G', 'R', 'Y', 'P'] E96 [['B', 'G', 'O', 'R'], ['G', 'Y', 'R', 'P']] 3 1 E117 ['G', 'P', 'R', 'Y'] [['B', 'G', 'O', 'R'], ['G', 'Y', 'R', 'P'], ['G', 'R', 'Y', 'P']] rfl ((calc_eq_fastP ['R', 'Y', 'G', 'P'] ['G', 'R', 'Y', 'P'] (by decide) (by decide)).trans (by decide)) (by decide) pe117 rfl nx117 (by decide) (by decide) (by decide)).trans ?_
  refine Eq.trans (step_lift ['G', 'R', 'Y', 'P'] (?_ : loopRun (honest ['R', 'Y', 'G', 'P']) 4 (some ['G', 'P', 'R', 'Y']) E117 [['B', 'G', 'O', 'R'], ['G', 'Y', 'R', 'P'], ['G', 'R', 'Y', 'P']] = (RunResult.solved ['R', 'Y', 'G', 'P'] 5, [['G', 'P', 'R', 'Y'], ['R', 'Y', 'G', 'P']]))) rfl
  refine (loopRun_step ['R', 'Y', 'G', 'P'] 4 3 ['G', 'P', 'R', 'Y'] E117 [['B', 'G', 'O', 'R'], ['G', 'Y', 'R', 'P'], ['G', 'R', 'Y', 'P']] 4 0 [['R', 'Y', 'G', 'P']] ['R', 'Y', 'G', 'P'] [['B', 'G', 'O', 'R'], ['G', 'Y', 'R', 'P'], ['G', 'R', 'Y', 'P'], ['G', 'P', 'R', 'Y']] rfl ((calc_eq_fastP ['R', 'Y', 'G', 'P'] ['G', 'P', 'R', 'Y'] (by decide) (by decide)).trans (by decide)) (by decide) pe221 rfl (findNextGuess_singleton ['R', 'Y', 'G', 'P'] [['B', 'G', 'O', 'R'], ['G', 'Y', 'R', 'P'], ['G', 'R', 'Y', 'P'], ['G', 'P', 'R', 'Y']]) (by decide) (by decide) (by decide)).trans ?_
  refine Eq.trans (step_lift ['G', 'P', 'R', 'Y'] (?_ : loopRun (honest ['R', 'Y', 'G', 'P']) 3 (some ['R', 'Y', 'G', 'P']) [['R', 'Y', 'G', 'P']] [['B', 'G', 'O', 'R'], ['G', 'Y', 'R', 'P'], ['G', 'R', 'Y', 'P'], ['G', 'P', 'R', 'Y']] = (RunResult.solved ['R', 'Y', 'G', 'P'] 5, [['R', 'Y', 'G', 'P']]))) rfl
  exact loopRun_last ['R', 'Y', 'G', 'P'] 3 2 [['R', 'Y', 'G', 'P']] [['B', 'G', 'O', 'R'], ['G', 'Y', 'R', 'P'], ['G', 'R', 'Y', 'P'], ['G', 'P', 'R', 'Y']] rfl rfl (by decide)

lemma rs222 : loopRun (honest ['R', 'Y', 'O', 'B']) 7 none S0 [] =
    (RunResult.solved ['R', 'Y', 'O', 'B'] 4, [['B', 'G', 'O', 'R'], ['B', 'O', 'R', 'Y'], ['O', 'Y', 'B', 'R'], ['R', 'Y', 'O', 'B']]) := by
  refine (loopRun_none' (honest ['R', 'Y', 'O', 'B']) 7 S0 []).trans ?_
  refine (loopRun_step ['R', 'Y', 'O', 'B'] 7 6 ['B', 'G', 'O', 'R'] S0 [] 2 1 E13 ['B', 'O', 'R', 'Y'] [['B', 'G', 'O', 'R']] rfl ((calc_eq_fastP ['R', 'Y', 'O', 'B'] ['B', 'G', 'O', 'R'] (by decide) (by decide)).trans (by decide)) (by decide) pe13 rfl nx13 (by decide) (by decide) (by decide)).trans ?_
  refine Eq.trans (step_lift ['B', 'G', 'O', 'R'] (?_ : loopRun (honest ['R', 'Y', 'O', 'B']) 6 (some ['B', 'O', 'R', 'Y']) E13 [['B', 'G', 'O', 'R']] = (RunResult.solved ['R', 'Y', 'O', 'B'] 4, [['B', 'O', 'R', 'Y'], ['O', 'Y', 'B', 'R'], ['R', 'Y', 'O', 'B']]))) rfl
  refine (loopRun_step ['R', 'Y', 'O', 'B'] 6 5 ['B', 'O', 'R', 'Y'] E13 [['B', 'G', 'O', 'R']] 4 0 E129 ['O', 'Y', 'B', 'R'] [['B', 'G', 'O', 'R'], ['B', 'O', 'R', 'Y']] rfl ((calc_eq_fastP ['R', 'Y', 'O', 'B'] ['B', 'O', 'R', 'Y'] (by decide) (by decide)).trans (by decide)) (by decide) pe129 rfl nx129 (by decide) (by decide) (by decide)).trans ?_
  refine Eq.trans (step_lift ['B', 'O', 'R', 'Y'] (?_ : loopRun (honest ['R', 'Y', 'O', 'B']) 5 (some ['O', 'Y', 'B', 'R']) E129 [['B', 'G', 'O', 'R'], ['B', 'O', 'R', 'Y']] = (RunResult.solved ['R', 'Y', 'O', 'B'] 4, [['O', 'Y', 'B', 'R'], ['R', 'Y', 'O', 'B']]))) rfl
  refine (loopRun_step ['R', 'Y', 'O', 'B'] 5 4 ['O', 'Y', 'B', 'R'] E129 [['B', 'G', 'O', 'R'], ['B', 'O', 'R', 'Y']] 3 1 [['R', 'Y', 'O', 'B']] ['R', 'Y', 'O', 'B'] [['B', 'G', 'O', 'R'], ['B', 'O', 'R', 'Y'], ['O', 'Y', 'B', 'R']] rfl ((calc_eq_fastP ['R', 'Y', 'O', 'B'] ['O', 'Y', 'B', 'R'] (by decide) (by decide)).trans (by decide)) (by decide) pe222 rfl (findNextGuess_singleton ['R', 'Y', 'O', 'B'] [['B', 'G', 'O', 'R'], ['B', 'O', 'R', 'Y'], ['O', 'Y', 'B', 'R']]) (by decide) (by decide) (by decide)).trans ?_
  refine Eq.trans (step_lift ['O', 'Y', 'B', 'R'] (?_ : loopRun (honest ['R', 'Y', 'O', 'B']) 4 (some ['R', 'Y', 'O', 'B']) [['R', 'Y', 'O', 'B']] [['B', 'G', 'O', 'R'], ['B', 'O', 'R', 'Y'], ['O', 'Y', 'B', 'R']] = (RunResult.solved ['R', 'Y', 'O', 'B'] 4, [['R', 'Y', 'O', 'B']]))) rfl
  exact loopRun_last ['R', 'Y', 'O', 'B'] 4 3 [['R', 'Y', 'O', 'B']] [['B', 'G', 'O', 'R'], ['B', 'O', 'R', 'Y'], ['O', 'Y', 'B', 'R']] rfl rfl (by decide)

lemma rs223 : loopRun (honest ['R', 'Y', 'O', 'G']) 7 none S0 [] =
    (RunResult.solved ['R', 'Y', 'O', 'G'] 4, [['B', 'G', 'O', 'R'], ['B', 'O', 'R', 'Y'], ['O', 'Y', 'G', 'R'], ['R', 'Y', 'O', 'G']]) := by
  refine (loopRun_none' (honest ['R', 'Y', 'O', 'G']) 7 S0 []).trans ?_
  refine (loopRun_step ['R', 'Y', 'O', 'G'] 7 6 ['B', 'G', 'O', 'R'] S0 [] 2 1 E13 ['B', 'O', 'R', 'Y'] [['B', 'G', 'O', 'R']] rfl ((calc_eq_fastP ['R', 'Y', 'O', 'G'] ['B', 'G', 'O', 'R'] (by decide) (by decide)).trans (by decide)) (by decide) pe13 rfl nx13 (by decide) (by decide) (by decide)).trans ?_
  refine Eq.trans (step_lift ['B', 'G', 'O', 'R'] (?_ : loopRun (honest ['R', 'Y', 'O', 'G']) 6 (some ['B', 'O', 'R', 'Y']) E13 [['B', 'G', 'O', 'R']] = (RunResult.solved ['R', 'Y', 'O', 'G'] 4, [['B', 'O', 'R', 'Y'], ['O', 'Y', 'G', 'R'], ['R', 'Y', 'O', 'G']]))) rfl
  refine (loopRun_step ['R', 'Y', 'O', 'G'] 6 5 ['B', 'O', 'R', 'Y'] E13 [['B', 'G', 'O', 'R']] 3 0 E69 ['O', 'Y', 'G', 'R'] [['B', 'G', 'O', 'R'], ['B', 'O', 'R', 'Y']] rfl ((calc_eq_fastP ['R', 'Y', 'O', 'G'] ['B', 'O', 'R', 'Y'] (by decide) (by decide)).trans (by decide)) (by decide) pe69 rfl nx69 (by decide) (by decide) (by decide)).trans ?_
  refine Eq.trans (step_lift ['B', 'O', 'R', 'Y'] (?_ : loopRun (honest ['R', 'Y', 'O', 'G']) 5 (some ['O', 'Y', 'G', 'R']) E69 [['B', 'G', 'O', 'R'], ['B', 'O', 'R', 'Y']] = (RunResult.solved ['R', 'Y', 'O', 'G'] 4, [['O', 'Y', 'G', 'R'], ['R', 'Y', 'O', 'G']]))) rfl
  refine (loopRun_step ['R', 'Y', 'O', 'G'] 5 4 ['O', 'Y', 'G', 'R'] E69 [['B', 'G', 'O', 'R'], ['B', 'O', 'R', 'Y']] 3 1 [['R', 'Y', 'O', 'G']] ['R', 'Y', 'O', 'G'] [['B', 'G', 'O', 'R'], ['B', 'O', 'R', 'Y'], ['O', 'Y', 'G', 'R']] rfl ((calc_eq_fastP ['R', 'Y', 'O', 'G'] ['O', 'Y', 'G', 'R'] (by decide) (by decide)).trans (by decide)) (by decide) pe223 rfl (findNextGuess_singleton ['R', 'Y', 'O', 'G'] [['B', 'G', 'O', 'R'], ['B', 'O', 'R', 'Y'], ['O', 'Y', 'G', 'R']]) (by decide) (by decide) (by decide)).trans ?_
  refine Eq.trans (step_lift ['O', 'Y', 'G', 'R'] (?_ : loopRun (honest ['R', 'Y', 'O', 'G']) 4 (some ['R', 'Y', 'O', 'G']) [['R', 'Y', 'O', 'G']] [['B', 'G', 'O', 'R'], ['B', 'O', 'R', 'Y'], ['O', 'Y', 'G', 'R']] = (RunResult.solved ['R', 'Y', 'O', 'G'] 4, [['R', 'Y', 'O', 'G']]))) rfl
  exact loopRun_last ['R', 'Y', 'O', 'G'] 4 3 [['R', 'Y', 'O', 'G']] [['B', 'G', 'O', 'R'], ['B', 'O', 'R', 'Y'], ['O', 'Y', 'G', 'R']] rfl rfl (by decide)

lemma rs224 : loopRun (honest ['R', 'Y', 'O', 'P']) 7 none S0 [] =
    (RunResult.solved ['R', 'Y', 'O', 'P'] 4, [['B', 'G', 'O', 'R'], ['B', 'O', 'Y', 'P'], ['B', 'Y', 'P', 'G'], ['R', 'Y', 'O', 'P']]) := by
  refine (loopRun_none' (honest ['R', 'Y', 'O', 'P']) 7 S0 []).trans ?_
  refine (loopRun_step ['R', 'Y', 'O', 'P'] 7 6 ['B', 'G', 'O', 'R'] S0 [] 1 1 E20 ['B', 'O', 'Y', 'P'] [['B', 'G', 'O', 'R']] rfl ((calc_eq_fastP ['R', 'Y', 'O', 'P'] ['B', 'G', 'O', 'R'] (by decide) (by decide)).trans (by decide)) (by decide) pe20 rfl nx20 (by decide) (by decide) (by decide)).trans ?_
  refine Eq.trans (step_lift ['B', 'G', 'O', 'R'] (?_ : loopRun (honest ['R', 'Y', 'O', 'P']) 6 (some ['B', 'O', 'Y', 'P']) E20 [['B', 'G', 'O', 'R']] = (RunResult.solved ['R', 'Y', 'O', 'P'] 4, [['B', 'O', 'Y', 'P'], ['B', 'Y', 'P', 'G'], ['R', 'Y', 'O', 'P']]))) rfl
  refine (loopRun_step ['R', 'Y', 'O', 'P'] 6 5 ['B', 'O', 'Y', 'P'] E20 [['B', 'G', 'O', 'R']] 2 1 E35 ['B', 'Y', 'P', 'G'] [['B', 'G', 'O', 'R'], ['B', 'O', 'Y', 'P']] rfl ((calc_eq_fastP ['R', 'Y', 'O', 'P'] ['B', 'O', 'Y', 'P'] (by decide) (by decide)).trans (by decide)) (by decide) pe35 rfl nx35 (by decide) (by decide) (by decide)).trans ?_
  refine Eq.trans (step_lift ['B', 'O', 'Y', 'P'] (?_ : loopRun (honest ['R', 'Y', 'O', 'P']) 5 (some ['B', 'Y', 'P', 'G']) E35 [['B', 'G', 'O', 'R'], ['B', 'O', 'Y', 'P']] = (RunResult.solved ['R', 'Y', 'O', 'P'] 4, [['B', 'Y', 'P', 'G'], ['R', 'Y', 'O', 'P']]))) rfl
  refine (loopRun_step ['R', 'Y', 'O', 'P'] 5 4 ['B', 'Y', 'P', 'G'] E35 [['B', 'G', 'O', 'R'], ['B', 'O', 'Y', 'P']] 1 1 E224 ['R', 'Y', 'O', 'P'] [['B', 'G', 'O', 'R'], ['B', 'O', 'Y', 'P'], ['B', 'Y', 'P', 'G']] rfl ((calc_eq_fastP ['R', 'Y', 'O', 'P'] ['B', 'Y', 'P', 'G'] (by decide) (by decide)).trans (by decide)) (by decide) pe224 rfl nx224 (by decide) (by decide) (by decide)).trans ?_
  refine Eq.trans (step_lift ['B', 'Y', 'P', 'G'] (?_ : loopRun (honest ['R', 'Y', 'O', 'P']) 4 (some ['R', 'Y', 'O', 'P']) E224 [['B', 'G', 'O', 'R'], ['B', 'O', 'Y', 'P'], ['B', 'Y', 'P', 'G']] = (RunResult.solved ['R', 'Y', 'O', 'P'] 4, [['R', 'Y', 'O', 'P']]))) rfl
  exact loopRun_last ['R', 'Y', 'O', 'P'] 4 3 E224 [['B', 'G', 'O', 'R'], ['B', 'O', 'Y', 'P'], ['B', 'Y', 'P', 'G']] rfl rfl (by decide)

lemma rs225 : loopRun (honest ['R', 'Y', 'P', 'B']) 7 none S0 [] =
    (RunResult.solved ['R', 'Y', 'P', 'B'] 5, [['B', 'G', 'O', 'R'], ['G', 'Y', 'R', 'P'], ['G', 'B', 'P', 'Y'], ['G', 'P', 'Y', 'O'], ['R', 'Y', 'P', 'B']]) := by
  refine (loopRun_none' (honest ['R', 'Y', 'P', 'B']) 7 S0 []).trans ?_
  refine (loopRun_step ['R', 'Y', 'P', 'B'] 7 6 ['B', 'G', 'O', 'R'] S0 [] 2 0 E72 ['G', 'Y', 'R', 'P'] [['B', 'G', 'O', 'R']] rfl ((calc_eq_fastP ['R', 'Y', 'P', 'B'] ['B', 'G', 'O', 'R'] (by decide) (by decide)).trans (by decide)) (by decide) pe72 rfl nx72 (by decide) (by decide) (by decide)).trans ?_
  refine Eq.trans (step_lift ['B', 'G', 'O', 'R'] (?_ : loopRun (honest ['R', 'Y', 'P', 'B']) 6 (some ['G', 'Y', 'R', 'P']) E72 [['B', 'G', 'O', 'R']] = (RunResult.solved ['R', 'Y', 'P', 'B'] 5, [['G', 'Y', 'R', 'P'], ['G', 'B', 'P', 'Y'], ['G', 'P', 'Y', 'O'], ['R', 'Y', 'P', 'B']]))) rfl
  refine (loopRun_step ['R', 'Y', 'P', 'B'] 6 5 ['G', 'Y', 'R', 'P'] E72 [['B', 'G', 'O', 'R']] 2 1 E78 ['G', 'B', 'P', 'Y'] [['B', 'G', 'O', 'R'], ['G', 'Y', 'R', 'P']] rfl ((calc_eq_fastP ['R', 'Y', 'P', 'B'] ['G', 'Y', 'R', 'P'] (by decide) (by decide)).trans (by decide)) (by decide) pe78 rfl nx78 (by decide) (by decide) (by decide)).trans ?_
  refine Eq.trans (step_lift ['G', 'Y', 'R', 'P'] (?_ : loopRun (honest ['R', 'Y', 'P', 'B']) 5 (some ['G', 'B', 'P', 'Y']) E78 [['B', 'G', 'O', 'R'], ['G', 'Y', 'R', 'P']] = (RunResult.solved ['R', 'Y', 'P', 'B'] 5, [['G', 'B', 'P', 'Y'], ['G', 'P', 'Y', 'O'], ['R', 'Y', 'P', 'B']]))) rfl
  refine (loopRun_step ['R', 'Y', 'P', 'B'] 5 4 ['G', 'B', 'P', 'Y'] E78 [['B', 'G', 'O', 'R'], ['G', 'Y', 'R', 'P']] 2 1 E119 ['G', 'P', 'Y', 'O'] [['B', 'G', 'O', 'R'], ['G', 'Y', 'R', 'P'], ['G', 'B', 'P', 'Y']] rfl ((calc_eq_fastP ['R', 'Y', 'P', 'B'] ['G', 'B', 'P', 'Y'] (by decide) (by decide)).trans (by decide)) (by decide) pe119 rfl nx119 (by decide) (by decide) (by decide)).trans ?_
  refine Eq.trans (step_lift ['G', 'B', 'P', 'Y'] (?_ : loopRun (honest ['R', 'Y', 'P', 'B']) 4 (some ['G', 'P', 'Y', 'O']) E119 [['B', 'G', 'O', 'R'], ['G', 'Y', 'R', 'P'], ['G', 'B', 'P', 'Y']] = (RunResult.solved ['R', 'Y', 'P', 'B'] 5, [['G', 'P', 'Y', 'O'], ['R', 'Y', 'P', 'B']]))) rfl
  refine (loopRun_step ['R', 'Y', 'P', 'B'] 4 3 ['G', 'P', 'Y', 'O'] E119 [['B', 'G', 'O', 'R'], ['G', 'Y', 'R', 'P'], ['G', 'B', 'P', 'Y']] 2 0 [['R', 'Y', 'P', 'B']] ['R', 'Y', 'P', 'B'] [['B', 'G', 'O', 'R'], ['G', 'Y', 'R', 'P'], ['G', 'B', 'P', 'Y'], ['G', 'P', 'Y', 'O']] rfl ((calc_eq_fastP ['R', 'Y', 'P', 'B'] ['G', 'P', 'Y', 'O'] (by decide) (by decide)).trans (by decide)) (by decide) pe225 rfl (findNextGuess_singleton ['R', 'Y', 'P', 'B'] [['B', 'G', 'O', 'R'], ['G', 'Y', 'R', 'P'], ['G', 'B', 'P', 'Y'], ['G', 'P', 'Y', 'O']]) (by decide) (by decide) (by decide)).trans ?_
  refine Eq.trans (step_lift ['G', 'P', 'Y', 'O'] (?_ : loopRun (honest ['R', 'Y', 'P', 'B']) 3 (some ['R', 'Y', 'P', 'B']) [['R', 'Y', 'P', 'B']] [['B', 'G', 'O', 'R'], ['G', 'Y', 'R', 'P'], ['G', 'B', 'P', 'Y'], ['G', 'P', 'Y', 'O']] = (RunResult.solved ['R', 'Y', 'P', 'B'] 5, [['R', 'Y', 'P', 'B']]))) rfl
  exact loopRun_last ['R', 'Y', 'P', 'B'] 3 2 [['R', 'Y', 'P', 'B']] [['B', 'G', 'O', 'R'], ['G', 'Y', 'R', 'P'], ['G', 'B', 'P', 'Y'], ['G', 'P', 'Y', 'O']] rfl rfl (by decide)

lemma rs226 : loopRun (honest ['R', 'Y', 'P', 'G']) 7 none S0 [] =
    (RunResult.solved ['R', 'Y', 'P', 'G'] 4, [['B', 'G', 'O', 'R'], ['G', 'Y', 'R', 'P'], ['G', 'R', 'P', 'Y'], ['R', 'Y', 'P', 'G']]) := by
  refine (loopRun_none' (honest ['R', 'Y', 'P', 'G']) 7 S0 []).trans ?_
  refine (loopRun_step ['R', 'Y', 'P', 'G'] 7 6 ['B', 'G', 'O', 'R'] S0 [] 2 0 E72 ['G', 'Y', 'R', 'P'] [['B', 'G', 'O', 'R']] rfl ((calc_eq_fastP ['R', 'Y', 'P', 'G'] ['B', 'G', 'O', 'R'] (by decide) (by decide)).trans (by decide)) (by decide) pe72 rfl nx72 (by decide) (by decide) (by decide)).trans ?_
  refine Eq.trans (step_lift ['B', 'G', 'O', 'R'] (?_ : loopRun (honest ['R', 'Y', 'P', 'G']) 6 (some ['G', 'Y', 'R', 'P']) E72 [['B', 'G', 'O', 'R']] = (RunResult.solved ['R', 'Y', 'P', 'G'] 4, [['G', 'Y', 'R', 'P'], ['G', 'R', 'P', 'Y'], ['R', 'Y', 'P', 'G']]))) rfl
  refine (loopRun_step ['R', 'Y', 'P', 'G'] 6 5 ['G', 'Y', 'R', 'P'] E72 [['B', 'G', 'O', 'R']] 3 1 E99 ['G', 'R', 'P', 'Y'] [['B', 'G', 'O', 'R'], ['G', 'Y', 'R', 'P']] rfl ((calc_eq_fastP ['R', 'Y', 'P', 'G'] ['G', 'Y', 'R', 'P'] (by decide) (by decide)).trans (by decide)) (by decide) pe99 rfl nx99 (by decide) (by decide) (by decide)).trans ?_
  refine Eq.trans (step_lift ['G', 'Y', 'R', 'P'] (?_ : loopRun (honest ['R', 'Y', 'P', 'G']) 5 (some ['G', 'R', 'P', 'Y']) E99 [['B', 'G', 'O', 'R'], ['G', 'Y', 'R', 'P']] = (RunResult.solved ['R', 'Y', 'P', 'G'] 4, [['G', 'R', 'P', 'Y'], ['R', 'Y', 'P', 'G']]))) rfl
  refine (loopRun_step ['R', 'Y', 'P', 'G'] 5 4 ['G', 'R', 'P', 'Y'] E99 [['B', 'G', 'O', 'R'], ['G', 'Y', 'R', 'P']] 3 1 E226 ['R', 'Y', 'P', 'G'] [['B', 'G', 'O', 'R'], ['G', 'Y', 'R', 'P'], ['G', 'R', 'P', 'Y']] rfl ((calc_eq_fastP ['R', 'Y', 'P', 'G'] ['G', 'R', 'P', 'Y'] (by decide) (by decide)).trans (by decide)) (by decide) pe226 rfl nx226 (by decide) (by decide) (by decide)).trans ?_
  refine Eq.trans (step_lift ['G', 'R', 'P', 'Y'] (?_ : loopRun (honest ['R', 'Y', 'P', 'G']) 4 (some ['R', 'Y', 'P', 'G']) E226 [['B', 'G', 'O', 'R'], ['G', 'Y', 'R', 'P'], ['G', 'R', 'P', 'Y']] = (RunResult.solved ['R', 'Y', 'P', 'G'] 4, [['R', 'Y', 'P', 'G']]))) rfl
  exact loopRun_last ['R', 'Y', 'P', 'G'] 4 3 E226 [['B', 'G', 'O', 'R'], ['G', 'Y', 'R', 'P'], ['G', 'R', 'P', 'Y']] rfl rfl (by decide)

lemma rs227 : loopRun (honest ['R', 'Y', 'P', 'O']) 7 none S0 [] =
    (RunResult.solved ['R', 'Y', 'P', 'O'] 5, [['B', 'G', 'O', 'R'], ['G', 'Y', 'R', 'P'], ['G', 'B', 'P', 'Y'], ['O', 'P', 'R', 'Y'], ['R', 'Y', 'P', 'O']]) := by
  refine (loopRun_none' (honest ['R', 'Y', 'P', 'O']) 7 S0 []).trans ?_
  refine (loopRun_step ['R', 'Y', 'P', 'O'] 7 6 ['B', 'G', 'O', 'R'] S0 [] 2 0 E72 ['G', 'Y', 'R', 'P'] [['B', 'G', 'O', 'R']] rfl ((calc_eq_fastP ['R', 'Y', 'P', 'O'] ['B', 'G', 'O', 'R'] (by decide) (by decide)).trans (by decide)) (by decide) pe72 rfl nx72 (by decide) (by decide) (by decide)).trans ?_
  refine Eq.trans (step_lift ['B', 'G', 'O', 'R'] (?_ : loopRun (honest ['R', 'Y', 'P', 'O']) 6 (some ['G', 'Y', 'R', 'P']) E72 [['B', 'G', 'O', 'R']] = (RunResult.solved ['R', 'Y', 'P', 'O'] 5, [['G', 'Y', 'R', 'P'], ['G', 'B', 'P', 'Y'], ['O', 'P', 'R', 'Y'], ['R', 'Y', 'P', 'O']]))) rfl
  refine (loopRun_step ['R', 'Y', 'P', 'O'] 6 5 ['G', 'Y', 'R', 'P'] E72 [['B', 'G', 'O', 'R']] 2 1 E78 ['G', 'B', 'P', 'Y'] [['B', 'G', 'O', 'R'], ['G', 'Y', 'R', 'P']] rfl ((calc_eq_fastP ['R', 'Y', 'P', 'O'] ['G', 'Y', 'R', 'P'] (by decide) (by decide)).trans (by decide)) (by decide) pe78 rfl nx78 (by decide) (by decide) (by decide)).trans ?_
  refine Eq.trans (step_lift ['G', 'Y', 'R', 'P'] (?_ : loopRun (honest ['R', 'Y', 'P', 'O']) 5 (some ['G', 'B', 'P', 'Y']) E78 [['B', 'G', 'O', 'R'], ['G', 'Y', 'R', 'P']] = (RunResult.solved ['R', 'Y', 'P', 'O'] 5, [['G', 'B', 'P', 'Y'], ['O', 'P', 'R', 'Y'], ['R', 'Y', 'P', 'O']]))) rfl
  refine (loopRun_step ['R', 'Y', 'P', 'O'] 5 4 ['G', 'B', 'P', 'Y'] E78 [['B', 'G', 'O', 'R'], ['G', 'Y', 'R', 'P']] 1 1 E179 ['O', 'P', 'R', 'Y'] [['B', 'G', 'O', 'R'], ['G', 'Y', 'R', 'P'], ['G', 'B', 'P', 'Y']] rfl ((calc_eq_fastP ['R', 'Y', 'P', 'O'] ['G', 'B', 'P', 'Y'] (by decide) (by decide)).trans (by decide)) (by decide) pe179 rfl nx179 (by decide) (by decide) (by decide)).trans ?_
  refine Eq.trans (step_lift ['G', 'B', 'P', 'Y'] (?_ : loopRun (honest ['R', 'Y', 'P', 'O']) 4 (some ['O', 'P', 'R', 'Y']) E179 [['B', 'G', 'O', 'R'], ['G', 'Y', 'R', 'P'], ['G', 'B', 'P', 'Y']] = (RunResult.solved ['R', 'Y', 'P', 'O'] 5, [['O', 'P', 'R', 'Y'], ['R', 'Y', 'P', 'O']]))) rfl
  refine (loopRun_step ['R', 'Y', 'P', 'O'] 4 3 ['O', 'P', 'R', 'Y'] E179 [['B', 'G', 'O', 'R'], ['G', 'Y', 'R', 'P'], ['G', 'B', 'P', 'Y']] 4 0 [['R', 'Y', 'P', 'O']] ['R', 'Y', 'P', 'O'] [['B', 'G', 'O', 'R'], ['G', 'Y', 'R', 'P'], ['G', 'B', 'P', 'Y'], ['O', 'P', 'R', 'Y']] rfl ((calc_eq_fastP ['R', 'Y', 'P', 'O'] ['O', 'P', 'R', 'Y'] (by decide) (by decide)).trans (by decide)) (by decide) pe227 rfl (findNextGuess_singleton ['R', 'Y', 'P', 'O'] [['B', 'G', 'O', 'R'], ['G', 'Y', 'R', 'P'], ['G', 'B', 'P', 'Y'], ['O', 'P', 'R', 'Y']]) (by decide) (by decide) (by decide)).trans ?_
  refine Eq.trans (step_lift ['O', 'P', 'R', 'Y'] (?_ : loopRun (honest ['R', 'Y', 'P', 'O']) 3 (some ['R', 'Y', 'P', 'O']) [['R', 'Y', 'P', 'O']] [['B', 'G', 'O', 'R'], ['G', 'Y', 'R', 'P'], ['G', 'B', 'P', 'Y'], ['O', 'P', 'R', 'Y']] = (RunResult.solved ['R', 'Y', 'P', 'O'] 5, [['R', 'Y', 'P', 'O']]))) rfl
  exact loopRun_last ['R', 'Y', 'P', 'O'] 3 2 [['R', 'Y', 'P', 'O']] [['B', 'G', 'O', 'R'], ['G', 'Y', 'R', 'P'], ['G', 'B', 'P', 'Y'], ['O', 'P', 'R', 'Y']] rfl rfl (by decide)

lemma rs228 : loopRun (honest ['R', 'P', 'B', 'G']) 7 none S0 [] =
    (RunResult.solved ['R', 'P', 'B', 'G'] 5, [['B', 'G', 'O', 'R'], ['G', 'O', 'R', 'Y'], ['O', 'B', 'P', 'G'], ['R', 'B', 'G', 'P'], ['R', 'P', 'B', 'G']]) := by
  refine (loopRun_none' (honest ['R', 'P', 'B', 'G']) 7 S0 []).trans ?_
  refine (loopRun_step ['R', 'P', 'B', 'G'] 7 6 ['B', 'G', 'O', 'R'] S0 [] 3 0 E65 ['G', 'O', 'R', 'Y'] [['B', 'G', 'O', 'R']] rfl ((calc_eq_fastP ['R', 'P', 'B', 'G'] ['B', 'G', 'O', 'R'] (by decide) (by decide)).trans (by decide)) (by decide) pe65 rfl nx65 (by decide) (by decide) (by decide)).trans ?_
  refine Eq.trans (step_lift ['B', 'G', 'O', 'R'] (?_ : loopRun (honest ['R', 'P', 'B', 'G']) 6 (some ['G', 'O', 'R', 'Y']) E65 [['B', 'G', 'O', 'R']] = (RunResult.solved ['R', 'P', 'B', 'G'] 5, [['G', 'O', 'R', 'Y'], ['O', 'B', 'P', 'G'], ['R', 'B', 'G', 'P'], ['R', 'P', 'B', 'G']]))) rfl
  refine (loopRun_step ['R', 'P', 'B', 'G'] 6 5 ['G', 'O', 'R', 'Y'] E65 [['B', 'G', 'O', 'R']] 2 0 E123 ['O', 'B', 'P', 'G'] [['B', 'G', 'O', 'R'], ['G', 'O', 'R', 'Y']] rfl ((calc_eq_fastP ['R', 'P', 'B', 'G'] ['G', 'O', 'R', 'Y'] (by decide) (by decide)).trans (by decide)) (by decide) pe123 rfl nx123 (by decide) (by decide) (by decide)).trans ?_
  refine Eq.trans (step_lift ['G', 'O', 'R', 'Y'] (?_ : loopRun (honest ['R', 'P', 'B', 'G']) 5 (some ['O', 'B', 'P', 'G']) E123 [['B', 'G', 'O', 'R'], ['G', 'O', 'R', 'Y']] = (RunResult.solved ['R', 'P', 'B', 'G'] 5, [['O', 'B', 'P', 'G'], ['R', 'B', 'G', 'P'], ['R', 'P', 'B', 'G']]))) rfl
  refine (loopRun_step ['R', 'P', 'B', 'G'] 5 4 ['O', 'B', 'P', 'G'] E123 [['B', 'G', 'O', 'R'], ['G', 'O', 'R', 'Y']] 2 1 E148 ['R', 'B', 'G', 'P'] [['B', 'G', 'O', 'R'], ['G', 'O', 'R', 'Y'], ['O', 'B', 'P', 'G']] rfl ((calc_eq_fastP ['R', 'P', 'B', 'G'] ['O', 'B', 'P', 'G'] (by decide) (by decide)).trans (by decide)) (by decide) pe148 rfl nx148 (by decide) (by decide) (by decide)).trans ?_
  refine Eq.trans (step_lift ['O', 'B', 'P', 'G'] (?_ : loopRun (honest ['R', 'P', 'B', 'G']) 4 (some ['R', 'B', 'G', 'P']) E148 [['B', 'G', 'O', 'R'], ['G', 'O', 'R', 'Y'], ['O', 'B', 'P', 'G']] = (RunResult.solved ['R', 'P', 'B', 'G'] 5, [['R', 'B', 'G', 'P'], ['R', 'P', 'B', 'G']]))) rfl
  refine (loopRun_step ['R', 'P', 'B', 'G'] 4 3 ['R', 'B', 'G', 'P'] E148 [['B', 'G', 'O', 'R'], ['G', 'O', 'R', 'Y'], ['O', 'B', 'P', 'G']] 3 1 [['R', 'P', 'B', 'G']] ['R', 'P', 'B', 'G'] [['B', 'G', 'O', 'R'], ['G', 'O', 'R', 'Y'], ['O', 'B', 'P', 'G'], ['R', 'B', 'G', 'P']] rfl ((calc_eq_fastP ['R', 'P', 'B', 'G'] ['R', 'B', 'G', 'P'] (by decide) (by decide)).trans (by decide)) (by decide) pe228 rfl (findNextGuess_singleton ['R', 'P', 'B', 'G'] [['B', 'G', 'O', 'R'], ['G', 'O', 'R', 'Y'], ['O', 'B', 'P', 'G'], ['R', 'B', 'G', 'P']]) (by decide) (by decide) (by decide)).trans ?_
  refine Eq.trans (step_lift ['R', 'B', 'G', 'P'] (?_ : loopRun (honest ['R', 'P', 'B', 'G']) 3 (some ['R', 'P', 'B', 'G']) [['R', 'P', 'B', 'G']] [['B', 'G', 'O', 'R'], ['G', 'O', 'R', 'Y'], ['O', 'B', 'P', 'G'], ['R', 'B', 'G', 'P']] = (RunResult.solved ['R', 'P', 'B', 'G'] 5, [['R', 'P', 'B', 'G']]))) rfl
  exact loopRun_last ['R', 'P', 'B', 'G'] 3 2 [['R', 'P', 'B', 'G']] [['B', 'G', 'O', 'R'], ['G', 'O', 'R', 'Y'], ['O', 'B', 'P', 'G'], ['R', 'B', 'G', 'P']] rfl rfl (by decide)

lemma rs229 : loopRun (honest ['R', 'P', 'B', 'O']) 7 none S0 [] =
    (RunResult.solved ['R', 'P', 'B', 'O'] 4, [['B', 'G', 'O', 'R'], ['G', 'O', 'R', 'Y'], ['O', 'B', 'P', 'G'], ['R', 'P', 'B', 'O']]) := by
  refine (loopRun_none' (honest ['R', 'P', 'B', 'O']) 7 S0 []).trans ?_
  refine (loopRun_step ['R', 'P', 'B', 'O'] 7 6 ['B', 'G', 'O', 'R'] S0 [] 3 0 E65 ['G', 'O', 'R', 'Y'] [['B', 'G', 'O', 'R']] rfl ((calc_eq_fastP ['R', 'P', 'B', 'O'] ['B', 'G', 'O', 'R'] (by decide) (by decide)).trans (by decide)) (by decide) pe65 rfl nx65 (by decide) (by decide) (by decide)).trans ?_
  refine Eq.trans (step_lift ['B', 'G', 'O', 'R'] (?_ : loopRun (honest ['R', 'P', 'B', 'O']) 6 (some ['G', 'O', 'R', 'Y']) E65 [['B', 'G', 'O', 'R']] = (RunResult.solved ['R', 'P', 'B', 'O'] 4, [['G', 'O', 'R', 'Y'], ['O', 'B', 'P', 'G'], ['R', 'P', 'B', 'O']]))) rfl
  refine (loopRun_step ['R', 'P', 'B', 'O'] 6 5 ['G', 'O', 'R', 'Y'] E65 [['B', 'G', 'O', 'R']] 2 0 E123 ['O', 'B', 'P', 'G'] [['B', 'G', 'O', 'R'], ['G', 'O', 'R', 'Y']] rfl ((calc_eq_fastP ['R', 'P', 'B', 'O'] ['G', 'O', 'R', 'Y'] (by decide) (by decide)).trans (by decide)) (by decide) pe123 rfl nx123 (by decide) (by decide) (by decide)).trans ?_
  refine Eq.trans (step_lift ['G', 'O', 'R', 'Y'] (?_ : loopRun (honest ['R', 'P', 'B', 'O']) 5 (some ['O', 'B', 'P', 'G']) E123 [['B', 'G', 'O', 'R'], ['G', 'O', 'R', 'Y']] = (RunResult.solved ['R', 'P', 'B', 'O'] 4, [['O', 'B', 'P', 'G'], ['R', 'P', 'B', 'O']]))) rfl
  refine (loopRun_step ['R', 'P', 'B', 'O'] 5 4 ['O', 'B', 'P', 'G'] E123 [['B', 'G', 'O', 'R'], ['G', 'O', 'R', 'Y']] 3 0 E229 ['R', 'P', 'B', 'O'] [['B', 'G', 'O', 'R'], ['G', 'O', 'R', 'Y'], ['O', 'B', 'P', 'G']] rfl ((calc_eq_fastP ['R', 'P', 'B', 'O'] ['O', 'B', 'P', 'G'] (by decide) (by decide)).trans (by decide)) (by decide) pe229 rfl nx229 (by decide) (by decide) (by decide)).trans ?_
  refine Eq.trans (step_lift ['O', 'B', 'P', 'G'] (?_ : loopRun (honest ['R', 'P', 'B', 'O']) 4 (some ['R', 'P', 'B', 'O']) E229 [['B', 'G', 'O', 'R'], ['G', 'O', 'R', 'Y'], ['O', 'B', 'P', 'G']] = (RunResult.solved ['R', 'P', 'B', 'O'] 4, [['R', 'P', 'B', 'O']]))) rfl
  exact loopRun_last ['R', 'P', 'B', 'O'] 4 3 E229 [['B', 'G', 'O', 'R'], ['G', 'O', 'R', 'Y'], ['O', 'B', 'P', 'G']] rfl rfl (by decide)

lemma rs230 : loopRun (honest ['R', 'P', 'B', 'Y']) 7 none S0 [] =
    (RunResult.solved ['R', 'P', 'B', 'Y'] 4, [['B', 'G', 'O', 'R'], ['G', 'Y', 'R', 'P'], ['R', 'B', 'P', 'Y'], ['R', 'P', 'B', 'Y']]) := by
  refine (loopRun_none' (honest ['R', 'P', 'B', 'Y']) 7 S0 []).trans ?_
  refine (loopRun_step ['R', 'P', 'B', 'Y'] 7 6 ['B', 'G', 'O', 'R'] S0 [] 2 0 E72 ['G', 'Y', 'R', 'P'] [['B', 'G', 'O', 'R']] rfl ((calc_eq_fastP ['R', 'P', 'B', 'Y'] ['B', 'G', 'O', 'R'] (by decide) (by decide)).trans (by decide)) (by decide) pe72 rfl nx72 (by decide) (by decide) (by decide)).trans ?_
  refine Eq.trans (step_lift ['B', 'G', 'O', 'R'] (?_ : loopRun (honest ['R', 'P', 'B', 'Y']) 6 (some ['G', 'Y', 'R', 'P']) E72 [['B', 'G', 'O', 'R']] = (RunResult.solved ['R', 'P', 'B', 'Y'] 4, [['G', 'Y', 'R', 'P'], ['R', 'B', 'P', 'Y'], ['R', 'P', 'B', 'Y']]))) rfl
  refine (loopRun_step ['R', 'P', 'B', 'Y'] 6 5 ['G', 'Y', 'R', 'P'] E72 [['B', 'G', 'O', 'R']] 3 0 E158 ['R', 'B', 'P', 'Y'] [['B', 'G', 'O', 'R'], ['G', 'Y', 'R', 'P']] rfl ((calc_eq_fastP ['R', 'P', 'B', 'Y'] ['G', 'Y', 'R', 'P'] (by decide) (by decide)).trans (by decide)) (by decide) pe158 rfl nx158 (by decide) (by decide) (by decide)).trans ?_
  refine Eq.trans (step_lift ['G', 'Y', 'R', 'P'] (?_ : loopRun (honest ['R', 'P', 'B', 'Y']) 5 (some ['R', 'B', 'P', 'Y']) E158 [['B', 'G', 'O', 'R'], ['G', 'Y', 'R', 'P']] = (RunResult.solved ['R', 'P', 'B', 'Y'] 4, [['R', 'B', 'P', 'Y'], ['R', 'P', 'B', 'Y']]))) rfl
  refine (loopRun_step ['R', 'P', 'B', 'Y'] 5 4 ['R', 'B', 'P', 'Y'] E158 [['B', 'G', 'O', 'R'], ['G', 'Y', 'R', 'P']] 2 2 [['R', 'P', 'B', 'Y']] ['R', 'P', 'B', 'Y'] [['B', 'G', 'O', 'R'], ['G', 'Y', 'R', 'P'], ['R', 'B', 'P', 'Y']] rfl ((calc_eq_fastP ['R', 'P', 'B', 'Y'] ['R', 'B', 'P', 'Y'] (by decide) (by decide)).trans (by decide)) (by decide) pe230 rfl (findNextGuess_singleton ['R', 'P', 'B', 'Y'] [['B', 'G', 'O', 'R'], ['G', 'Y', 'R', 'P'], ['R', 'B', 'P', 'Y']]) (by decide) (by decide) (by decide)).trans ?_
  refine Eq.trans (step_lift ['R', 'B', 'P', 'Y'] (?_ : loopRun (honest ['R', 'P', 'B', 'Y']) 4 (some ['R', 'P', 'B', 'Y']) [['R', 'P', 'B', 'Y']] [['B', 'G', 'O', 'R'], ['G', 'Y', 'R', 'P'], ['R', 'B', 'P', 'Y']] = (RunResult.solved ['R', 'P', 'B', 'Y'] 4, [['R', 'P', 'B', 'Y']]))) rfl
  exact loopRun_last ['R', 'P', 'B', 'Y'] 4 3 [['R', 'P', 'B', 'Y']] [['B', 'G', 'O', 'R'], ['G', 'Y', 'R', 'P'], ['R', 'B', 'P', 'Y']] rfl rfl (by decide)

lemma rs231 : loopRun (honest ['R', 'P', 'G', 'B']) 7 none S0 [] =
    (RunResult.solved ['R', 'P', 'G', 'B'] 5, [['B', 'G', 'O', 'R'], ['G', 'O', 'R', 'Y'], ['O', 'B', 'P', 'G'], ['R', 'P', 'B', 'O'], ['R', 'P', 'G', 'B']]) := by
  refine (loopRun_none' (honest ['R', 'P', 'G', 'B']) 7 S0 []).trans ?_
  refine (loopRun_step ['R', 'P', 'G', 'B'] 7 6 ['B', 'G', 'O', 'R'] S0 [] 3 0 E65 ['G', 'O', 'R', 'Y'] [['B', 'G', 'O', 'R']] rfl ((calc_eq_fastP ['R', 'P', 'G', 'B'] ['B', 'G', 'O', 'R'] (by decide) (by decide)).trans (by decide)) (by decide) pe65 rfl nx65 (by decide) (by decide) (by decide)).trans ?_
  refine Eq.trans (step_lift ['B', 'G', 'O', 'R'] (?_ : loopRun (honest ['R', 'P', 'G', 'B']) 6 (some ['G', 'O', 'R', 'Y']) E65 [['B', 'G', 'O', 'R']] = (RunResult.solved ['R', 'P', 'G', 'B'] 5, [['G', 'O', 'R', 'Y'], ['O', 'B', 'P', 'G'], ['R', 'P', 'B', 'O'], ['R', 'P', 'G', 'B']]))) rfl
  refine (loopRun_step ['R', 'P', 'G', 'B'] 6 5 ['G', 'O', 'R', 'Y'] E65 [['B', 'G', 'O', 'R']] 2 0 E123 ['O', 'B', 'P', 'G'] [['B', 'G', 'O', 'R'], ['G', 'O', 'R', 'Y']] rfl ((calc_eq_fastP ['R', 'P', 'G', 'B'] ['G', 'O', 'R', 'Y'] (by decide) (by decide)).trans (by decide)) (by decide) pe123 rfl nx123 (by decide) (by decide) (by decide)).trans ?_
  refine Eq.trans (step_lift ['G', 'O', 'R', 'Y'] (?_ : loopRun (honest ['R', 'P', 'G', 'B']) 5 (some ['O', 'B', 'P', 'G']) E123 [['B', 'G', 'O', 'R'], ['G', 'O', 'R', 'Y']] = (RunResult.solved ['R', 'P', 'G', 'B'] 5, [['O', 'B', 'P', 'G'], ['R', 'P', 'B', 'O'], ['R', 'P', 'G', 'B']]))) rfl
  refine (loopRun_step ['R', 'P', 'G', 'B'] 5 4 ['O', 'B', 'P', 'G'] E123 [['B', 'G', 'O', 'R'], ['G', 'O', 'R', 'Y']] 3 0 E229 ['R', 'P', 'B', 'O'] [['B', 'G', 'O', 'R'], ['G', 'O', 'R', 'Y'], ['O', 'B', 'P', 'G']] rfl ((calc_eq_fastP ['R', 'P', 'G', 'B'] ['O', 'B', 'P', 'G'] (by decide) (by decide)).trans (by decide)) (by decide) pe229 rfl nx229 (by decide) (by decide) (by decide)).trans ?_
  refine Eq.trans (step_lift ['O', 'B', 'P', 'G'] (?_ : loopRun (honest ['R', 'P', 'G', 'B']) 4 (some ['R', 'P', 'B', 'O']) E229 [['B', 'G', 'O', 'R'], ['G', 'O', 'R', 'Y'], ['O', 'B', 'P', 'G']] = (RunResult.solved ['R', 'P', 'G', 'B'] 5, [['R', 'P', 'B', 'O'], ['R', 'P', 'G', 'B']]))) rfl
  refine (loopRun_step ['R', 'P', 'G', 'B'] 4 3 ['R', 'P', 'B', 'O'] E229 [['B', 'G', 'O', 'R'], ['G', 'O', 'R', 'Y'], ['O', 'B', 'P', 'G']] 1 2 [['R', 'P', 'G', 'B']] ['R', 'P', 'G', 'B'] [['B', 'G', 'O', 'R'], ['G', 'O', 'R', 'Y'], ['O', 'B', 'P', 'G'], ['R', 'P', 'B', 'O']] rfl ((calc_eq_fastP ['R', 'P', 'G', 'B'] ['R', 'P', 'B', 'O'] (by decide) (by decide)).trans (by decide)) (by decide) pe231 rfl (findNextGuess_singleton ['R', 'P', 'G', 'B'] [['B', 'G', 'O', 'R'], ['G', 'O', 'R', 'Y'], ['O', 'B', 'P', 'G'], ['R', 'P', 'B', 'O']]) (by decide) (by decide) (by decide)).trans ?_
  refine Eq.trans (step_lift ['R', 'P', 'B', 'O'] (?_ : loopRun (honest ['R', 'P', 'G', 'B']) 3 (some ['R', 'P', 'G', 'B']) [['R', 'P', 'G', 'B']] [['B', 'G', 'O', 'R'], ['G', 'O', 'R', 'Y'], ['O', 'B', 'P', 'G'], ['R', 'P', 'B', 'O']] = (RunResult.solved ['R', 'P', 'G', 'B'] 5, [['R', 'P', 'G', 'B']]))) rfl
  exact loopRun_last ['R', 'P', 'G', 'B'] 3 2 [['R', 'P', 'G', 'B']] [['B', 'G', 'O', 'R'], ['G', 'O', 'R', 'Y'], ['O', 'B', 'P', 'G'], ['R', 'P', 'B', 'O']] rfl rfl (by decide)

lemma rs232 : loopRun (honest ['R', 'P', 'G', 'O']) 7 none S0 [] =
    (RunResult.solved ['R', 'P', 'G', 'O'] 4, [['B', 'G', 'O', 'R'], ['G', 'O', 'R', 'Y'], ['O', 'B', 'Y', 'G'], ['R', 'P', 'G', 'O']]) := by
  refine (loopRun_none' (honest ['R', 'P', 'G', 'O']) 7 S0 []).trans ?_
  refine (loopRun_step ['R', 'P', 'G', 'O'] 7 6 ['B', 'G', 'O', 'R'] S0 [] 3 0 E65 ['G', 'O', 'R', 'Y'] [['B', 'G', 'O', 'R']] rfl ((calc_eq_fastP ['R', 'P', 'G', 'O'] ['B', 'G', 'O', 'R'] (by decide) (by decide)).trans (by decide)) (by decide) pe65 rfl nx65 (by decide) (by decide) (by decide)).trans ?_
  refine Eq.trans (step_lift ['B', 'G', 'O', 'R'] (?_ : loopRun (honest ['R', 'P', 'G', 'O']) 6 (some ['G', 'O', 'R', 'Y']) E65 [['B', 'G', 'O', 'R']] = (RunResult.solved ['R', 'P', 'G', 'O'] 4, [['G', 'O', 'R', 'Y'], ['O', 'B', 'Y', 'G'], ['R', 'P', 'G', 'O']]))) rfl
  refine (loopRun_step ['R', 'P', 'G', 'O'] 6 5 ['G', 'O', 'R', 'Y'] E65 [['B', 'G', 'O', 'R']] 3 0 E128 ['O', 'B', 'Y', 'G'] [['B', 'G', 'O', 'R'], ['G', 'O', 'R', 'Y']] rfl ((calc_eq_fastP ['R', 'P', 'G', 'O'] ['G', 'O', 'R', 'Y'] (by decide) (by decide)).trans (by decide)) (by decide) pe128 rfl nx128 (by decide) (by decide) (by decide)).trans ?_
  refine Eq.trans (step_lift ['G', 'O', 'R', 'Y'] (?_ : loopRun (honest ['R', 'P', 'G', 'O']) 5 (some ['O', 'B', 'Y', 'G']) E128 [['B', 'G', 'O', 'R'], ['G', 'O', 'R', 'Y']] = (RunResult.solved ['R', 'P', 'G', 'O'] 4, [['O', 'B', 'Y', 'G'], ['R', 'P', 'G', 'O']]))) rfl
  refine (loopRun_step ['R', 'P', 'G', 'O'] 5 4 ['O', 'B', 'Y', 'G'] E128 [['B', 'G', 'O', 'R'], ['G', 'O', 'R', 'Y']] 2 0 E232 ['R', 'P', 'G', 'O'] [['B', 'G', 'O', 'R'], ['G', 'O', 'R', 'Y'], ['O', 'B', 'Y', 'G']] rfl ((calc_eq_fastP ['R', 'P', 'G', 'O'] ['O', 'B', 'Y', 'G'] (by decide) (by decide)).trans (by decide)) (by decide) pe232 rfl nx232 (by decide) (by decide) (by decide)).trans ?_
  refine Eq.trans (step_lift ['O', 'B', 'Y', 'G'] (?_ : loopRun (honest ['R', 'P', 'G', 'O']) 4 (some ['R', 'P', 'G', 'O']) E232 [['B', 'G', 'O', 'R'], ['G', 'O', 'R', 'Y'], ['O', 'B', 'Y', 'G']] = (RunResult.solved ['R', 'P', 'G', 'O'] 4, [['R', 'P', 'G', 'O']]))) rfl
  exact loopRun_last ['R', 'P', 'G', 'O'] 4 3 E232 [['B', 'G', 'O', 'R'], ['G', 'O', 'R', 'Y'], ['O', 'B', 'Y', 'G']] rfl rfl (by decide)

lemma rs233 : loopRun (honest ['R', 'P', 'G', 'Y']) 7 none S0 [] =
    (RunResult.solved ['R', 'P', 'G', 'Y'] 3, [['B', 'G', 'O', 'R'], ['G', 'Y', 'R', 'P'], ['R', 'P', 'G', 'Y']]) := by
  refine (loopRun_none' (honest ['R', 'P', 'G', 'Y']) 7 S0 []).trans ?_
  refine (loopRun_step ['R', 'P', 'G', 'Y'] 7 6 ['B', 'G', 'O', 'R'] S0 [] 2 0 E72 ['G', 'Y', 'R', 'P'] [['B', 'G', 'O', 'R']] rfl ((calc_eq_fastP ['R', 'P', 'G', 'Y'] ['B', 'G', 'O', 'R'] (by decide) (by decide)).trans (by decide)) (by decide) pe72 rfl nx72 (by decide) (by decide) (by decide)).trans ?_
  refine Eq.trans (step_lift ['B', 'G', 'O', 'R'] (?_ : loopRun (honest ['R', 'P', 'G', 'Y']) 6 (some ['G', 'Y', 'R', 'P']) E72 [['B', 'G', 'O', 'R']] = (RunResult.solved ['R', 'P', 'G', 'Y'] 3, [['G', 'Y', 'R', 'P'], ['R', 'P', 'G', 'Y']]))) rfl
  refine (loopRun_step ['R', 'P', 'G', 'Y'] 6 5 ['G', 'Y', 'R', 'P'] E72 [['B', 'G', 'O', 'R']] 4 0 E233 ['R', 'P', 'G', 'Y'] [['B', 'G', 'O', 'R'], ['G', 'Y', 'R', 'P']] rfl ((calc_eq_fastP ['R', 'P', 'G', 'Y'] ['G', 'Y', 'R', 'P'] (by decide) (by decide)).trans (by decide)) (by decide) pe233 rfl nx233 (by decide) (by decide) (by decide)).trans ?_
  refine Eq.trans (step_lift ['G', 'Y', 'R', 'P'] (?_ : loopRun (honest ['R', 'P', 'G', 'Y']) 5 (some ['R', 'P', 'G', 'Y']) E233 [['B', 'G', 'O', 'R'], ['G', 'Y', 'R', 'P']] = (RunResult.solved ['R', 'P', 'G', 'Y'] 3, [['R', 'P', 'G', 'Y']]))) rfl
  exact loopRun_last ['R', 'P', 'G', 'Y'] 5 4 E233 [['B', 'G', 'O', 'R'], ['G', 'Y', 'R', 'P']] rfl rfl (by decide)

lemma rs234 : loopRun (honest ['R', 'P', 'O', 'B']) 7 none S0 [] =
    (RunResult.solved ['R', 'P', 'O', 'B'] 5, [['B', 'G', 'O', 'R'], ['B', 'O', 'R', 'Y'], ['O', 'Y', 'G', 'R'], ['R', 'B', 'O', 'P'], ['R', 'P', 'O', 'B']]) := by
  refine (loopRun_none' (honest ['R', 'P', 'O', 'B']) 7 S0 []).trans ?_
  refine (loopRun_step ['R', 'P', 'O', 'B'] 7 6 ['B', 'G', 'O', 'R'] S0 [] 2 1 E13 ['B', 'O', 'R', 'Y'] [['B', 'G', 'O', 'R']] rfl ((calc_eq_fastP ['R', 'P', 'O', 'B'] ['B', 'G', 'O', 'R'] (by decide) (by decide)).trans (by decide)) (by decide) pe13 rfl nx13 (by decide) (by decide) (by decide)).trans ?_
  refine Eq.trans (step_lift ['B', 'G', 'O', 'R'] (?_ : loopRun (honest ['R', 'P', 'O', 'B']) 6 (some ['B', 'O', 'R', 'Y']) E13 [['B', 'G', 'O', 'R']] = (RunResult.solved ['R', 'P', 'O', 'B'] 5, [['B', 'O', 'R', 'Y'], ['O', 'Y', 'G', 'R'], ['R', 'B', 'O', 'P'], ['R', 'P', 'O', 'B']]))) rfl
  refine (loopRun_step ['R', 'P', 'O', 'B'] 6 5 ['B', 'O', 'R', 'Y'] E13 [['B', 'G', 'O', 'R']] 3 0 E69 ['O', 'Y', 'G', 'R'] [['B', 'G', 'O', 'R'], ['B', 'O', 'R', 'Y']] rfl ((calc_eq_fastP ['R', 'P', 'O', 'B'] ['B', 'O', 'R', 'Y'] (by decide) (by decide)).trans (by decide)) (by decide) pe69 rfl nx69 (by decide) (by decide) (by decide)).trans ?_
  refine Eq.trans (step_lift ['B', 'O', 'R', 'Y'] (?_ : loopRun (honest ['R', 'P', 'O', 'B']) 5 (some ['O', 'Y', 'G', 'R']) E69 [['B', 'G', 'O', 'R'], ['B', 'O', 'R', 'Y']] = (RunResult.solved ['R', 'P', 'O', 'B'] 5, [['O', 'Y', 'G', 'R'], ['R', 'B', 'O', 'P'], ['R', 'P', 'O', 'B']]))) rfl
  refine (loopRun_step ['R', 'P', 'O', 'B'] 5 4 ['O', 'Y', 'G', 'R'] E69 [['B', 'G', 'O', 'R'], ['B', 'O', 'R', 'Y']] 2 0 E187 ['R', 'B', 'O', 'P'] [['B', 'G', 'O', 'R'], ['B', 'O', 'R', 'Y'], ['O', 'Y', 'G', 'R']] rfl ((calc_eq_fastP ['R', 'P', 'O', 'B'] ['O', 'Y', 'G', 'R'] (by decide) (by decide)).trans (by decide)) (by decide) pe187 rfl nx187 (by decide) (by decide) (by decide)).trans ?_
  refine Eq.trans (step_lift ['O', 'Y', 'G', 'R'] (?_ : loopRun (honest ['R', 'P', 'O', 'B']) 4 (some ['R', 'B', 'O', 'P']) E187 [['B', 'G', 'O', 'R'], ['B', 'O', 'R', 'Y'], ['O', 'Y', 'G', 'R']] = (RunResult.solved ['R', 'P', 'O', 'B'] 5, [['R', 'B', 'O', 'P'], ['R', 'P', 'O', 'B']]))) rfl
  refine (loopRun_step ['R', 'P', 'O', 'B'] 4 3 ['R', 'B', 'O', 'P'] E187 [['B', 'G', 'O', 'R'], ['B', 'O', 'R', 'Y'], ['O', 'Y', 'G', 'R']] 2 2 [['R', 'P', 'O', 'B']] ['R', 'P', 'O', 'B'] [['B', 'G', 'O', 'R'], ['B', 'O', 'R', 'Y'], ['O', 'Y', 'G', 'R'], ['R', 'B', 'O', 'P']] rfl ((calc_eq_fastP ['R', 'P', 'O', 'B'] ['R', 'B', 'O', 'P'] (by decide) (by decide)).trans (by decide)) (by decide) pe234 rfl (findNextGuess_singleton ['R', 'P', 'O', 'B'] [['B', 'G', 'O', 'R'], ['B', 'O', 'R', 'Y'], ['O', 'Y', 'G', 'R'], ['R', 'B', 'O', 'P']]) (by decide) (by decide) (by decide)).trans ?_
  refine Eq.trans (step_lift ['R', 'B', 'O', 'P'] (?_ : loopRun (honest ['R', 'P', 'O', 'B']) 3 (some ['R', 'P', 'O', 'B']) [['R', 'P', 'O', 'B']] [['B', 'G', 'O', 'R'], ['B', 'O', 'R', 'Y'], ['O', 'Y', 'G', 'R'], ['R', 'B', 'O', 'P']] = (RunResult.solved ['R', 'P', 'O', 'B'] 5, [['R', 'P', 'O', 'B']]))) rfl
  exact loopRun_last ['R', 'P', 'O', 'B'] 3 2 [['R', 'P', 'O', 'B']] [['B', 'G', 'O', 'R'], ['B', 'O', 'R', 'Y'], ['O', 'Y', 'G', 'R'], ['R', 'B', 'O', 'P']] rfl rfl (by decide)

lemma rs235 : loopRun (honest ['R', 'P', 'O', 'G']) 7 none S0 [] =
    (RunResult.solved ['R', 'P', 'O', 'G'] 5, [['B', 'G', 'O', 'R'], ['B', 'O', 'R', 'Y'], ['G', 'P', 'O', 'B'], ['G', 'R', 'O', 'P'], ['R', 'P', 'O', 'G']]) := by
  refine (loopRun_none' (honest ['R', 'P', 'O', 'G']) 7 S0 []).trans ?_
  refine (loopRun_step ['R', 'P', 'O', 'G'] 7 6 ['B', 'G', 'O', 'R'] S0 [] 2 1 E13 ['B', 'O', 'R', 'Y'] [['B', 'G', 'O', 'R']] rfl ((calc_eq_fastP ['R', 'P', 'O', 'G'] ['B', 'G', 'O', 'R'] (by decide) (by decide)).trans (by decide)) (by decide) pe13 rfl nx13 (by decide) (by decide) (by decide)).trans ?_
  refine Eq.trans (step_lift ['B', 'G', 'O', 'R'] (?_ : loopRun (honest ['R', 'P', 'O', 'G']) 6 (some ['B', 'O', 'R', 'Y']) E13 [['B', 'G', 'O', 'R']] = (RunResult.solved ['R', 'P', 'O', 'G'] 5, [['B', 'O', 'R', 'Y'], ['G', 'P', 'O', 'B'], ['G', 'R', 'O', 'P'], ['R', 'P', 'O', 'G']]))) rfl
  refine (loopRun_step ['R', 'P', 'O', 'G'] 6 5 ['B', 'O', 'R', 'Y'] E13 [['B', 'G', 'O', 'R']] 2 0 E62 ['G', 'P', 'O', 'B'] [['B', 'G', 'O', 'R'], ['B', 'O', 'R', 'Y']] rfl ((calc_eq_fastP ['R', 'P', 'O', 'G'] ['B', 'O', 'R', 'Y'] (by decide) (by decide)).trans (by decide)) (by decide) pe62 rfl nx62 (by decide) (by decide) (by decide)).trans ?_
  refine Eq.trans (step_lift ['B', 'O', 'R', 'Y'] (?_ : loopRun (honest ['R', 'P', 'O', 'G']) 5 (some ['G', 'P', 'O', 'B']) E62 [['B', 'G', 'O', 'R'], ['B', 'O', 'R', 'Y']] = (RunResult.solved ['R', 'P', 'O', 'G'] 5, [['G', 'P', 'O', 'B'], ['G', 'R', 'O', 'P'], ['R', 'P', 'O', 'G']]))) rfl
  refine (loopRun_step ['R', 'P', 'O', 'G'] 5 4 ['G', 'P', 'O', 'B'] E62 [['B', 'G', 'O', 'R'], ['B', 'O', 'R', 'Y']] 1 2 E93 ['G', 'R', 'O', 'P'] [['B', 'G', 'O', 'R'], ['B', 'O', 'R', 'Y'], ['G', 'P', 'O', 'B']] rfl ((calc_eq_fastP ['R', 'P', 'O', 'G'] ['G', 'P', 'O', 'B'] (by decide) (by decide)).trans (by decide)) (by decide) pe93 rfl nx93 (by decide) (by decide) (by decide)).trans ?_
  refine Eq.trans (step_lift ['G', 'P', 'O', 'B'] (?_ : loopRun (honest ['R', 'P', 'O', 'G']) 4 (some ['G', 'R', 'O', 'P']) E93 [['B', 'G', 'O', 'R'], ['B', 'O', 'R', 'Y'], ['G', 'P', 'O', 'B']] = (RunResult.solved ['R', 'P', 'O', 'G'] 5, [['G', 'R', 'O', 'P'], ['R', 'P', 'O', 'G']]))) rfl
  refine (loopRun_step ['R', 'P', 'O', 'G'] 4 3 ['G', 'R', 'O', 'P'] E93 [['B', 'G', 'O', 'R'], ['B', 'O', 'R', 'Y'], ['G', 'P', 'O', 'B']] 3 1 [['R', 'P', 'O', 'G']] ['R', 'P', 'O', 'G'] [['B', 'G', 'O', 'R'], ['B', 'O', 'R', 'Y'], ['G', 'P', 'O', 'B'], ['G', 'R', 'O', 'P']] rfl ((calc_eq_fastP ['R', 'P', 'O', 'G'] ['G', 'R', 'O', 'P'] (by decide) (by decide)).trans (by decide)) (by decide) pe235 rfl (findNextGuess_singleton ['R', 'P', 'O', 'G'] [['B', 'G', 'O', 'R'], ['B', 'O', 'R', 'Y'], ['G', 'P', 'O', 'B'], ['G', 'R', 'O', 'P']]) (by decide) (by decide) (by decide)).trans ?_
  refine Eq.trans (step_lift ['G', 'R', 'O', 'P'] (?_ : loopRun (honest ['R', 'P', 'O', 'G']) 3 (some ['R', 'P', 'O', 'G']) [['R', 'P', 'O', 'G']] [['B', 'G', 'O', 'R'], ['B', 'O', 'R', 'Y'], ['G', 'P', 'O', 'B'], ['G', 'R', 'O', 'P']] = (RunResult.solved ['R', 'P', 'O', 'G'] 5, [['R', 'P', 'O', 'G']]))) rfl
  exact loopRun_last ['R', 'P', 'O', 'G'] 3 2 [['R', 'P', 'O', 'G']] [['B', 'G', 'O', 'R'], ['B', 'O', 'R', 'Y'], ['G', 'P', 'O', 'B'], ['G', 'R', 'O', 'P']] rfl rfl (by decide)

lemma rs236 : loopRun (honest ['R', 'P', 'O', 'Y']) 7 none S0 [] =
    (RunResult.solved ['R', 'P', 'O', 'Y'] 4, [['B', 'G', 'O', 'R'], ['B', 'O', 'Y', 'P'], ['G', 'P', 'O', 'Y'], ['R', 'P', 'O', 'Y']]) := by
  refine (loopRun_none' (honest ['R', 'P', 'O', 'Y']) 7 S0 []).trans ?_
  refine (loopRun_step ['R', 'P', 'O', 'Y'] 7 6 ['B', 'G', 'O', 'R'] S0 [] 1 1 E20 ['B', 'O', 'Y', 'P'] [['B', 'G', 'O', 'R']] rfl ((calc_eq_fastP ['R', 'P', 'O', 'Y'] ['B', 'G', 'O', 'R'] (by decide) (by decide)).trans (by decide)) (by decide) pe20 rfl nx20 (by decide) (by decide) (by decide)).trans ?_
  refine Eq.trans (step_lift ['B', 'G', 'O', 'R'] (?_ : loopRun (honest ['R', 'P', 'O', 'Y']) 6 (some ['B', 'O', 'Y', 'P']) E20 [['B', 'G', 'O', 'R']] = (RunResult.solved ['R', 'P', 'O', 'Y'] 4, [['B', 'O', 'Y', 'P'], ['G', 'P', 'O', 'Y'], ['R', 'P', 'O', 'Y']]))) rfl
  refine (loopRun_step ['R', 'P', 'O', 'Y'] 6 5 ['B', 'O', 'Y', 'P'] E20 [['B', 'G', 'O', 'R']] 3 0 E114 ['G', 'P', 'O', 'Y'] [['B', 'G', 'O', 'R'], ['B', 'O', 'Y', 'P']] rfl ((calc_eq_fastP ['R', 'P', 'O', 'Y'] ['B', 'O', 'Y', 'P'] (by decide) (by decide)).trans (by decide)) (by decide) pe114 rfl nx114 (by decide) (by decide) (by decide)).trans ?_
  refine Eq.trans (step_lift ['B', 'O', 'Y', 'P'] (?_ : loopRun (honest ['R', 'P', 'O', 'Y']) 5 (some ['G', 'P', 'O', 'Y']) E114 [['B', 'G', 'O', 'R'], ['B', 'O', 'Y', 'P']] = (RunResult.solved ['R', 'P', 'O', 'Y'] 4, [['G', 'P', 'O', 'Y'], ['R', 'P', 'O', 'Y']]))) rfl
  refine (loopRun_step ['R', 'P', 'O', 'Y'] 5 4 ['G', 'P', 'O', 'Y'] E114 [['B', 'G', 'O', 'R'], ['B', 'O', 'Y', 'P']] 0 3 [['R', 'P', 'O', 'Y']] ['R', 'P', 'O', 'Y'] [['B', 'G', 'O', 'R'], ['B', 'O', 'Y', 'P'], ['G', 'P', 'O', 'Y']] rfl ((calc_eq_fastP ['R', 'P', 'O', 'Y'] ['G', 'P', 'O', 'Y'] (by decide) (by decide)).trans (by decide)) (by decide) pe236 rfl (findNextGuess_singleton ['R', 'P', 'O', 'Y'] [['B', 'G', 'O', 'R'], ['B', 'O', 'Y', 'P'], ['G', 'P', 'O', 'Y']]) (by decide) (by decide) (by decide)).trans ?_
  refine Eq.trans (step_lift ['G', 'P', 'O', 'Y'] (?_ : loopRun (honest ['R', 'P', 'O', 'Y']) 4 (some ['R', 'P', 'O', 'Y']) [['R', 'P', 'O', 'Y']] [['B', 'G', 'O', 'R'], ['B', 'O', 'Y', 'P'], ['G', 'P', 'O', 'Y']] = (RunResult.solved ['R', 'P', 'O', 'Y'] 4, [['R', 'P', 'O', 'Y']]))) rfl
  exact loopRun_last ['R', 'P', 'O', 'Y'] 4 3 [['R', 'P', 'O', 'Y']] [['B', 'G', 'O', 'R'], ['B', 'O', 'Y', 'P'], ['G', 'P', 'O', 'Y']] rfl rfl (by decide)

lemma rs237 : loopRun (honest ['R', 'P', 'Y', 'B']) 7 none S0 [] =
    (RunResult.solved ['R', 'P', 'Y', 'B'] 4, [['B', 'G', 'O', 'R'], ['G', 'Y', 'R', 'P'], ['R', 'B', 'P', 'Y'], ['R', 'P', 'Y', 'B']]) := by
  refine (loopRun_none' (honest ['R', 'P', 'Y', 'B']) 7 S0 []).trans ?_
  refine (loopRun_step ['R', 'P', 'Y', 'B'] 7 6 ['B', 'G', 'O', 'R'] S0 [] 2 0 E72 ['G', 'Y', 'R', 'P'] [['B', 'G', 'O', 'R']] rfl ((calc_eq_fastP ['R', 'P', 'Y', 'B'] ['B', 'G', 'O', 'R'] (by decide) (by decide)).trans (by decide)) (by decide) pe72 rfl nx72 (by decide) (by decide) (by decide)).trans ?_
  refine Eq.trans (step_lift ['B', 'G', 'O', 'R'] (?_ : loopRun (honest ['R', 'P', 'Y', 'B']) 6 (some ['G', 'Y', 'R', 'P']) E72 [['B', 'G', 'O', 'R']] = (RunResult.solved ['R', 'P', 'Y', 'B'] 4, [['G', 'Y', 'R', 'P'], ['R', 'B', 'P', 'Y'], ['R', 'P', 'Y', 'B']]))) rfl
  refine (loopRun_step ['R', 'P', 'Y', 'B'] 6 5 ['G', 'Y', 'R', 'P'] E72 [['B', 'G', 'O', 'R']] 3 0 E158 ['R', 'B', 'P', 'Y'] [['B', 'G', 'O', 'R'], ['G', 'Y', 'R', 'P']] rfl ((calc_eq_fastP ['R', 'P', 'Y', 'B'] ['G', 'Y', 'R', 'P'] (by decide) (by decide)).trans (by decide)) (by decide) pe158 rfl nx158 (by decide) (by decide) (by decide)).trans ?_
  refine Eq.trans (step_lift ['G', 'Y', 'R', 'P'] (?_ : loopRun (honest ['R', 'P', 'Y', 'B']) 5 (some ['R', 'B', 'P', 'Y']) E158 [['B', 'G', 'O', 'R'], ['G', 'Y', 'R', 'P']] = (RunResult.solved ['R', 'P', 'Y', 'B'] 4, [['R', 'B', 'P', 'Y'], ['R', 'P', 'Y', 'B']]))) rfl
  refine (loopRun_step ['R', 'P', 'Y', 'B'] 5 4 ['R', 'B', 'P', 'Y'] E158 [['B', 'G', 'O', 'R'], ['G', 'Y', 'R', 'P']] 3 1 E237 ['R', 'P', 'Y', 'B'] [['B', 'G', 'O', 'R'], ['G', 'Y', 'R', 'P'], ['R', 'B', 'P', 'Y']] rfl ((calc_eq_fastP ['R', 'P', 'Y', 'B'] ['R', 'B', 'P', 'Y'] (by decide) (by decide)).trans (by decide)) (by decide) pe237 rfl nx237 (by decide) (by decide) (by decide)).trans ?_
  refine Eq.trans (step_lift ['R', 'B', 'P', 'Y'] (?_ : loopRun (honest ['R', 'P', 'Y', 'B']) 4 (some ['R', 'P', 'Y', 'B']) E237 [['B', 'G', 'O', 'R'], ['G', 'Y', 'R', 'P'], ['R', 'B', 'P', 'Y']] = (RunResult.solved ['R', 'P', 'Y', 'B'] 4, [['R', 'P', 'Y', 'B']]))) rfl
  exact loopRun_last ['R', 'P', 'Y', 'B'] 4 3 E237 [['B', 'G', 'O', 'R'], ['G', 'Y', 'R', 'P'], ['R', 'B', 'P', 'Y']] rfl rfl (by decide)

lemma rs238 : loopRun (honest ['R', 'P', 'Y', 'G']) 7 none S0 [] =
    (RunResult.solved ['R', 'P', 'Y', 'G'] 4, [['B', 'G', 'O', 'R'], ['G', 'Y', 'R', 'P'], ['R', 'P', 'G', 'Y'], ['R', 'P', 'Y', 'G']]) := by
  refine (loopRun_none' (honest ['R', 'P', 'Y', 'G']) 7 S0 []).trans ?_
  refine (loopRun_step ['R', 'P', 'Y', 'G'] 7 6 ['B', 'G', 'O', 'R'] S0 [] 2 0 E72 ['G', 'Y', 'R', 'P'] [['B', 'G', 'O', 'R']] rfl ((calc_eq_fastP ['R', 'P', 'Y', 'G'] ['B', 'G', 'O', 'R'] (by decide) (by decide)).trans (by decide)) (by decide) pe72 rfl nx72 (by decide) (by decide) (by decide)).trans ?_
  refine Eq.trans (step_lift ['B', 'G', 'O', 'R'] (?_ : loopRun (honest ['R', 'P', 'Y', 'G']) 6 (some ['G', 'Y', 'R', 'P']) E72 [['B', 'G', 'O', 'R']] = (RunResult.solved ['R', 'P', 'Y', 'G'] 4, [['G', 'Y', 'R', 'P'], ['R', 'P', 'G', 'Y'], ['R', 'P', 'Y', 'G']]))) rfl
  refine (loopRun_step ['R', 'P', 'Y', 'G'] 6 5 ['G', 'Y', 'R', 'P'] E72 [['B', 'G', 'O', 'R']] 4 0 E233 ['R', 'P', 'G', 'Y'] [['B', 'G', 'O', 'R'], ['G', 'Y', 'R', 'P']] rfl ((calc_eq_fastP ['R', 'P', 'Y', 'G'] ['G', 'Y', 'R', 'P'] (by decide) (by decide)).trans (by decide)) (by decide) pe233 rfl nx233 (by decide) (by decide) (by decide)).trans ?_
  refine Eq.trans (step_lift ['G', 'Y', 'R', 'P'] (?_ : loopRun (honest ['R', 'P', 'Y', 'G']) 5 (some ['R', 'P', 'G', 'Y']) E233 [['B', 'G', 'O', 'R'], ['G', 'Y', 'R', 'P']] = (RunResult.solved ['R', 'P', 'Y', 'G'] 4, [['R', 'P', 'G', 'Y'], ['R', 'P', 'Y', 'G']]))) rfl
  refine (loopRun_step ['R', 'P', 'Y', 'G'] 5 4 ['R', 'P', 'G', 'Y'] E233 [['B', 'G', 'O', 'R'], ['G', 'Y', 'R', 'P']] 2 2 E238 ['R', 'P', 'Y', 'G'] [['B', 'G', 'O', 'R'], ['G', 'Y', 'R', 'P'], ['R', 'P', 'G', 'Y']] rfl ((calc_eq_fastP ['R', 'P', 'Y', 'G'] ['R', 'P', 'G', 'Y'] (by decide) (by decide)).trans (by decide)) (by decide) pe238 rfl nx238 (by decide) (by decide) (by decide)).trans ?_
  refine Eq.trans (step_lift ['R', 'P', 'G', 'Y'] (?_ : loopRun (honest ['R', 'P', 'Y', 'G']) 4 (some ['R', 'P', 'Y', 'G']) E238 [['B', 'G', 'O', 'R'], ['G', 'Y', 'R', 'P'], ['R', 'P', 'G', 'Y']] = (RunResult.solved ['R', 'P', 'Y', 'G'] 4, [['R', 'P', 'Y', 'G']]))) rfl
  exact loopRun_last ['R', 'P', 'Y', 'G'] 4 3 E238 [['B', 'G', 'O', 'R'], ['G', 'Y', 'R', 'P'], ['R', 'P', 'G', 'Y']] rfl rfl (by decide)

lemma rs239 : loopRun (honest ['R', 'P', 'Y', 'O']) 7 none S0 [] =
    (RunResult.solved ['R', 'P', 'Y', 'O'] 4, [['B', 'G', 'O', 'R'], ['G', 'Y', 'R', 'P'], ['R', 'B', 'P', 'Y'], ['R', 'P', 'Y', 'O']]) := by
  refine (loopRun_none' (honest ['R', 'P', 'Y', 'O']) 7 S0 []).trans ?_
  refine (loopRun_step ['R', 'P', 'Y', 'O'] 7 6 ['B', 'G', 'O', 'R'] S0 [] 2 0 E72 ['G', 'Y', 'R', 'P'] [['B', 'G', 'O', 'R']] rfl ((calc_eq_fastP ['R', 'P', 'Y', 'O'] ['B', 'G', 'O', 'R'] (by decide) (by decide)).trans (by decide)) (by decide) pe72 rfl nx72 (by decide) (by decide) (by decide)).trans ?_
  refine Eq.trans (step_lift ['B', 'G', 'O', 'R'] (?_ : loopRun (honest ['R', 'P', 'Y', 'O']) 6 (some ['G', 'Y', 'R', 'P']) E72 [['B', 'G', 'O', 'R']] = (RunResult.solved ['R', 'P', 'Y', 'O'] 4, [['G', 'Y', 'R', 'P'], ['R', 'B', 'P', 'Y'], ['R', 'P', 'Y', 'O']]))) rfl
  refine (loopRun_step ['R', 'P', 'Y', 'O'] 6 5 ['G', 'Y', 'R', 'P'] E72 [['B', 'G', 'O', 'R']] 3 0 E158 ['R', 'B', 'P', 'Y'] [['B', 'G', 'O', 'R'], ['G', 'Y', 'R', 'P']] rfl ((calc_eq_fastP ['R', 'P', 'Y', 'O'] ['G', 'Y', 'R', 'P'] (by decide) (by decide)).trans (by decide)) (by decide) pe158 rfl nx158 (by decide) (by decide) (by decide)).trans ?_
  refine Eq.trans (step_lift ['G', 'Y', 'R', 'P'] (?_ : loopRun (honest ['R', 'P', 'Y', 'O']) 5 (some ['R', 'B', 'P', 'Y']) E158 [['B', 'G', 'O', 'R'], ['G', 'Y', 'R', 'P']] = (RunResult.solved ['R', 'P', 'Y', 'O'] 4, [['R', 'B', 'P', 'Y'], ['R', 'P', 'Y', 'O']]))) rfl
  refine (loopRun_step ['R', 'P', 'Y', 'O'] 5 4 ['R', 'B', 'P', 'Y'] E158 [['B', 'G', 'O', 'R'], ['G', 'Y', 'R', 'P']] 2 1 E239 ['R', 'P', 'Y', 'O'] [['B', 'G', 'O', 'R'], ['G', 'Y', 'R', 'P'], ['R', 'B', 'P', 'Y']] rfl ((calc_eq_fastP ['R', 'P', 'Y', 'O'] ['R', 'B', 'P', 'Y'] (by decide) (by decide)).trans (by decide)) (by decide) pe239 rfl nx239 (by decide) (by decide) (by decide)).trans ?_
  refine Eq.trans (step_lift ['R', 'B', 'P', 'Y'] (?_ : loopRun (honest ['R', 'P', 'Y', 'O']) 4 (some ['R', 'P', 'Y', 'O']) E239 [['B', 'G', 'O', 'R'], ['G', 'Y', 'R', 'P'], ['R', 'B', 'P', 'Y']] = (RunResult.solved ['R', 'P', 'Y', 'O'] 4, [['R', 'P', 'Y', 'O']]))) rfl
  exact loopRun_last ['R', 'P', 'Y', 'O'] 4 3 E239 [['B', 'G', 'O', 'R'], ['G', 'Y', 'R', 'P'], ['R', 'B', 'P', 'Y']] rfl rfl (by decide)

lemma rs240 : loopRun (honest ['Y', 'B', 'G', 'O']) 7 none S0 [] =
    (RunResult.solved ['Y', 'B', 'G', 'O'] 5, [['B', 'G', 'O', 'R'], ['G', 'O', 'R', 'Y'], ['O', 'B', 'Y', 'G'], ['O', 'Y', 'G', 'B'], ['Y', 'B', 'G', 'O']]) := by
  refine (loopRun_none' (honest ['Y', 'B', 'G', 'O']) 7 S0 []).trans ?_
  refine (loopRun_step ['Y', 'B', 'G', 'O'] 7 6 ['B', 'G', 'O', 'R'] S0 [] 3 0 E65 ['G', 'O', 'R', 'Y'] [['B', 'G', 'O', 'R']] rfl ((calc_eq_fastP ['Y', 'B', 'G', 'O'] ['B', 'G', 'O', 'R'] (by decide) (by decide)).trans (by decide)) (by decide) pe65 rfl nx65 (by decide) (by decide) (by decide)).trans ?_
  refine Eq.trans (step_lift ['B', 'G', 'O', 'R'] (?_ : loopRun (honest ['Y', 'B', 'G', 'O']) 6 (some ['G', 'O', 'R', 'Y']) E65 [['B', 'G', 'O', 'R']] = (RunResult.solved ['Y', 'B', 'G', 'O'] 5, [['G', 'O', 'R', 'Y'], ['O', 'B', 'Y', 'G'], ['O', 'Y', 'G', 'B'], ['Y', 'B', 'G', 'O']]))) rfl
  refine (loopRun_step ['Y', 'B', 'G', 'O'] 6 5 ['G', 'O', 'R', 'Y'] E65 [['B', 'G', 'O', 'R']] 3 0 E128 ['O', 'B', 'Y', 'G'] [['B', 'G', 'O', 'R'], ['G', 'O', 'R', 'Y']] rfl ((calc_eq_fastP ['Y', 'B', 'G', 'O'] ['G', 'O', 'R', 'Y'] (by decide) (by decide)).trans (by decide)) (by decide) pe128 rfl nx128 (by decide) (by decide) (by decide)).trans ?_
  refine Eq.trans (step_lift ['G', 'O', 'R', 'Y'] (?_ : loopRun (honest ['Y', 'B', 'G', 'O']) 5 (some ['O', 'B', 'Y', 'G']) E128 [['B', 'G', 'O', 'R'], ['G', 'O', 'R', 'Y']] = (RunResult.solved ['Y', 'B', 'G', 'O'] 5, [['O', 'B', 'Y', 'G'], ['O', 'Y', 'G', 'B'], ['Y', 'B', 'G', 'O']]))) rfl
  refine (loopRun_step ['Y', 'B', 'G', 'O'] 5 4 ['O', 'B', 'Y', 'G'] E128 [['B', 'G', 'O', 'R'], ['G', 'O', 'R', 'Y']] 3 1 E163 ['O', 'Y', 'G', 'B'] [['B', 'G', 'O', 'R'], ['G', 'O', 'R', 'Y'], ['O', 'B', 'Y', 'G']] rfl ((calc_eq_fastP ['Y', 'B', 'G', 'O'] ['O', 'B', 'Y', 'G'] (by decide) (by decide)).trans (by decide)) (by decide) pe163 rfl nx163 (by decide) (by decide) (by decide)).trans ?_
  refine Eq.trans (step_lift ['O', 'B', 'Y', 'G'] (?_ : loopRun (honest ['Y', 'B', 'G', 'O']) 4 (some ['O', 'Y', 'G', 'B']) E163 [['B', 'G', 'O', 'R'], ['G', 'O', 'R', 'Y'], ['O', 'B', 'Y', 'G']] = (RunResult.solved ['Y', 'B', 'G', 'O'] 5, [['O', 'Y', 'G', 'B'], ['Y', 'B', 'G', 'O']]))) rfl
  refine (loopRun_step ['Y', 'B', 'G', 'O'] 4 3 ['O', 'Y', 'G', 'B'] E163 [['B', 'G', 'O', 'R'], ['G', 'O', 'R', 'Y'], ['O', 'B', 'Y', 'G']] 3 1 [['Y', 'B', 'G', 'O']] ['Y', 'B', 'G', 'O'] [['B', 'G', 'O', 'R'], ['G', 'O', 'R', 'Y'], ['O', 'B', 'Y', 'G'], ['O', 'Y', 'G', 'B']] rfl ((calc_eq_fastP ['Y', 'B', 'G', 'O'] ['O', 'Y', 'G', 'B'] (by decide) (by decide)).trans (by decide)) (by decide) pe240 rfl (findNextGuess_singleton ['Y', 'B', 'G', 'O'] [['B', 'G', 'O', 'R'], ['G', 'O', 'R', 'Y'], ['O', 'B', 'Y', 'G'], ['O', 'Y', 'G', 'B']]) (by decide) (by decide) (by decide)).trans ?_
  refine Eq.trans (step_lift ['O', 'Y', 'G', 'B'] (?_ : loopRun (honest ['Y', 'B', 'G', 'O']) 3 (some ['Y', 'B', 'G', 'O']) [['Y', 'B', 'G', 'O']] [['B', 'G', 'O', 'R'], ['G', 'O', 'R', 'Y'], ['O', 'B', 'Y', 'G'], ['O', 'Y', 'G', 'B']] = (RunResult.solved ['Y', 'B', 'G', 'O'] 5, [['Y', 'B', 'G', 'O']]))) rfl
  exact loopRun_last ['Y', 'B', 'G', 'O'] 3 2 [['Y', 'B', 'G', 'O']] [['B', 'G', 'O', 'R'], ['G', 'O', 'R', 'Y'], ['O', 'B', 'Y', 'G'], ['O', 'Y', 'G', 'B']] rfl rfl (by decide)

lemma rs241 : loopRun (honest ['Y', 'B', 'G', 'R']) 7 none S0 [] =
    (RunResult.solved ['Y', 'B', 'G', 'R'] 5, [['B', 'G', 'O', 'R'], ['B', 'O', 'R', 'Y'], ['O', 'Y', 'G', 'R'], ['G', 'Y', 'B', 'R'], ['Y', 'B', 'G', 'R']]) := by
  refine (loopRun_none' (honest ['Y', 'B', 'G', 'R']) 7 S0 []).trans ?_
  refine (loopRun_step ['Y', 'B', 'G', 'R'] 7 6 ['B', 'G', 'O', 'R'] S0 [] 2 1 E13 ['B', 'O', 'R', 'Y'] [['B', 'G', 'O', 'R']] rfl ((calc_eq_fastP ['Y', 'B', 'G', 'R'] ['B', 'G', 'O', 'R'] (by decide) (by decide)).trans (by decide)) (by decide) pe13 rfl nx13 (by decide) (by decide) (by decide)).trans ?_
  refine Eq.trans (step_lift ['B', 'G', 'O', 'R'] (?_ : loopRun (honest ['Y', 'B', 'G', 'R']) 6 (some ['B', 'O', 'R', 'Y']) E13 [['B', 'G', 'O', 'R']] = (RunResult.solved ['Y', 'B', 'G', 'R'] 5, [['B', 'O', 'R', 'Y'], ['O', 'Y', 'G', 'R'], ['G', 'Y', 'B', 'R'], ['Y', 'B', 'G', 'R']]))) rfl
  refine (loopRun_step ['Y', 'B', 'G', 'R'] 6 5 ['B', 'O', 'R', 'Y'] E13 [['B', 'G', 'O', 'R']] 3 0 E69 ['O', 'Y', 'G', 'R'] [['B', 'G', 'O', 'R'], ['B', 'O', 'R', 'Y']] rfl ((calc_eq_fastP ['Y', 'B', 'G', 'R'] ['B', 'O', 'R', 'Y'] (by decide) (by decide)).trans (by decide)) (by decide) pe69 rfl nx69 (by decide) (by decide) (by decide)).trans ?_
  refine Eq.trans (step_lift ['B', 'O', 'R', 'Y'] (?_ : loopRun (honest ['Y', 'B', 'G', 'R']) 5 (some ['O', 'Y', 'G', 'R']) E69 [['B', 'G', 'O', 'R'], ['B', 'O', 'R', 'Y']] = (RunResult.solved ['Y', 'B', 'G', 'R'] 5, [['O', 'Y', 'G', 'R'], ['G', 'Y', 'B', 'R'], ['Y', 'B', 'G', 'R']]))) rfl
  refine (loopRun_step ['Y', 'B', 'G', 'R'] 5 4 ['O', 'Y', 'G', 'R'] E69 [['B', 'G', 'O', 'R'], ['B', 'O', 'R', 'Y']] 1 2 E101 ['G', 'Y', 'B', 'R'] [['B', 'G', 'O', 'R'], ['B', 'O', 'R', 'Y'], ['O', 'Y', 'G', 'R']] rfl ((calc_eq_fastP ['Y', 'B', 'G', 'R'] ['O', 'Y', 'G', 'R'] (by decide) (by decide)).trans (by decide)) (by decide) pe101 rfl nx101 (by decide) (by decide) (by decide)).trans ?_
  refine Eq.trans (step_lift ['O', 'Y', 'G', 'R'] (?_ : loopRun (honest ['Y', 'B', 'G', 'R']) 4 (some ['G', 'Y', 'B', 'R']) E101 [['B', 'G', 'O', 'R'], ['B', 'O', 'R', 'Y'], ['O', 'Y', 'G', 'R']] = (RunResult.solved ['Y', 'B', 'G', 'R'] 5, [['G', 'Y', 'B', 'R'], ['Y', 'B', 'G', 'R']]))) rfl
  refine (loopRun_step ['Y', 'B', 'G', 'R'] 4 3 ['G', 'Y', 'B', 'R'] E101 [['B', 'G', 'O', 'R'], ['B', 'O', 'R', 'Y'], ['O', 'Y', 'G', 'R']] 3 1 [['Y', 'B', 'G', 'R']] ['Y', 'B', 'G', 'R'] [['B', 'G', 'O', 'R'], ['B', 'O', 'R', 'Y'], ['O', 'Y', 'G', 'R'], ['G', 'Y', 'B', 'R']] rfl ((calc_eq_fastP ['Y', 'B', 'G', 'R'] ['G', 'Y', 'B', 'R'] (by decide) (by decide)).trans (by decide)) (by decide) pe241 rfl (findNextGuess_singleton ['Y', 'B', 'G', 'R'] [['B', 'G', 'O', 'R'], ['B', 'O', 'R', 'Y'], ['O', 'Y', 'G', 'R'], ['G', 'Y', 'B', 'R']]) (by decide) (by decide) (by decide)).trans ?_
  refine Eq.trans (step_lift ['G', 'Y', 'B', 'R'] (?_ : loopRun (honest ['Y', 'B', 'G', 'R']) 3 (some ['Y', 'B', 'G', 'R']) [['Y', 'B', 'G', 'R']] [['B', 'G', 'O', 'R'], ['B', 'O', 'R', 'Y'], ['O', 'Y', 'G', 'R'], ['G', 'Y', 'B', 'R']] = (RunResult.solved ['Y', 'B', 'G', 'R'] 5, [['Y', 'B', 'G', 'R']]))) rfl
  exact loopRun_last ['Y', 'B', 'G', 'R'] 3 2 [['Y', 'B', 'G', 'R']] [['B', 'G', 'O', 'R'], ['B', 'O', 'R', 'Y'], ['O', 'Y', 'G', 'R'], ['G', 'Y', 'B', 'R']] rfl rfl (by decide)

lemma rs242 : loopRun (honest ['Y', 'B', 'G', 'P']) 7 none S0 [] =
    (RunResult.solved ['Y', 'B', 'G', 'P'] 5, [['B', 'G', 'O', 'R'], ['G', 'Y', 'R', 'P'], ['G', 'B', 'P', 'Y'], ['G', 'P', 'Y', 'B'], ['Y', 'B', 'G', 'P']]) := by
  refine (loopRun_none' (honest ['Y', 'B', 'G', 'P']) 7 S0 []).trans ?_
  refine (loopRun_step ['Y', 'B', 'G', 'P'] 7 6 ['B', 'G', 'O', 'R'] S0 [] 2 0 E72 ['G', 'Y', 'R', 'P'] [['B', 'G', 'O', 'R']] rfl ((calc_eq_fastP ['Y', 'B', 'G', 'P'] ['B', 'G', 'O', 'R'] (by decide) (by decide)).trans (by decide)) (by decide) pe72 rfl nx72 (by decide) (by decide) (by decide)).trans ?_
  refine Eq.trans (step_lift ['B', 'G', 'O', 'R'] (?_ : loopRun (honest ['Y', 'B', 'G', 'P']) 6 (some ['G', 'Y', 'R', 'P']) E72 [['B', 'G', 'O', 'R']] = (RunResult.solved ['Y', 'B', 'G', 'P'] 5, [['G', 'Y', 'R', 'P'], ['G', 'B', 'P', 'Y'], ['G', 'P', 'Y', 'B'], ['Y', 'B', 'G', 'P']]))) rfl
  refine (loopRun_step ['Y', 'B', 'G', 'P'] 6 5 ['G', 'Y', 'R', 'P'] E72 [['B', 'G', 'O', 'R']] 2 1 E78 ['G', 'B', 'P', 'Y'] [['B', 'G', 'O', 'R'], ['G', 'Y', 'R', 'P']] rfl ((calc_eq_fastP ['Y', 'B', 'G', 'P'] ['G', 'Y', 'R', 'P'] (by decide) (by decide)).trans (by decide)) (by decide) pe78 rfl nx78 (by decide) (by decide) (by decide)).trans ?_
  refine Eq.trans (step_lift ['G', 'Y', 'R', 'P'] (?_ : loopRun (honest ['Y', 'B', 'G', 'P']) 5 (some ['G', 'B', 'P', 'Y']) E78 [['B', 'G', 'O', 'R'], ['G', 'Y', 'R', 'P']] = (RunResult.solved ['Y', 'B', 'G', 'P'] 5, [['G', 'B', 'P', 'Y'], ['G', 'P', 'Y', 'B'], ['Y', 'B', 'G', 'P']]))) rfl
  refine (loopRun_step ['Y', 'B', 'G', 'P'] 5 4 ['G', 'B', 'P', 'Y'] E78 [['B', 'G', 'O', 'R'], ['G', 'Y', 'R', 'P']] 3 1 E118 ['G', 'P', 'Y', 'B'] [['B', 'G', 'O', 'R'], ['G', 'Y', 'R', 'P'], ['G', 'B', 'P', 'Y']] rfl ((calc_eq_fastP ['Y', 'B', 'G', 'P'] ['G', 'B', 'P', 'Y'] (by decide) (by decide)).trans (by decide)) (by decide) pe118 rfl nx118 (by decide) (by decide) (by decide)).trans ?_
  refine Eq.trans (step_lift ['G', 'B', 'P', 'Y'] (?_ : loopRun (honest ['Y', 'B', 'G', 'P']) 4 (some ['G', 'P', 'Y', 'B']) E118 [['B', 'G', 'O', 'R'], ['G', 'Y', 'R', 'P'], ['G', 'B', 'P', 'Y']] = (RunResult.solved ['Y', 'B', 'G', 'P'] 5, [['G', 'P', 'Y', 'B'], ['Y', 'B', 'G', 'P']]))) rfl
  refine (loopRun_step ['Y', 'B', 'G', 'P'] 4 3 ['G', 'P', 'Y', 'B'] E118 [['B', 'G', 'O', 'R'], ['G', 'Y', 'R', 'P'], ['G', 'B', 'P', 'Y']] 4 0 [['Y', 'B', 'G', 'P']] ['Y', 'B', 'G', 'P'] [['B', 'G', 'O', 'R'], ['G', 'Y', 'R', 'P'], ['G', 'B', 'P', 'Y'], ['G', 'P', 'Y', 'B']] rfl ((calc_eq_fastP ['Y', 'B', 'G', 'P'] ['G', 'P', 'Y', 'B'] (by decide) (by decide)).trans (by decide)) (by decide) pe242 rfl (findNextGuess_singleton ['Y', 'B', 'G', 'P'] [['B', 'G', 'O', 'R'], ['G', 'Y', 'R', 'P'], ['G', 'B', 'P', 'Y'], ['G', 'P', 'Y', 'B']]) (by decide) (by decide) (by decide)).trans ?_
  refine Eq.trans (step_lift ['G', 'P', 'Y', 'B'] (?_ : loopRun (honest ['Y', 'B', 'G', 'P']) 3 (some ['Y', 'B', 'G', 'P']) [['Y', 'B', 'G', 'P']] [['B', 'G', 'O', 'R'], ['G', 'Y', 'R', 'P'], ['G', 'B', 'P', 'Y'], ['G', 'P', 'Y', 'B']] = (RunResult.solved ['Y', 'B', 'G', 'P'] 5, [['Y', 'B', 'G', 'P']]))) rfl
  exact loopRun_last ['Y', 'B', 'G', 'P'] 3 2 [['Y', 'B', 'G', 'P']] [['B', 'G', 'O', 'R'], ['G', 'Y', 'R', 'P'], ['G', 'B', 'P', 'Y'], ['G', 'P', 'Y', 'B']] rfl rfl (by decide)

lemma rs243 : loopRun (honest ['Y', 'B', 'O', 'G']) 7 none S0 [] =
    (RunResult.solved ['Y', 'B', 'O', 'G'] 5, [['B', 'G', 'O', 'R'], ['B', 'O', 'R', 'Y'], ['O', 'Y', 'G', 'R'], ['R', 'G', 'Y', 'B'], ['Y', 'B', 'O', 'G']]) := by
  refine (loopRun_none' (honest ['Y', 'B', 'O', 'G']) 7 S0 []).trans ?_
  refine (loopRun_step ['Y', 'B', 'O', 'G'] 7 6 ['B', 'G', 'O', 'R'] S0 [] 2 1 E13 ['B', 'O', 'R', 'Y'] [['B', 'G', 'O', 'R']] rfl ((calc_eq_fastP ['Y', 'B', 'O', 'G'] ['B', 'G', 'O', 'R'] (by decide) (by decide)).trans (by decide)) (by decide) pe13 rfl nx13 (by decide) (by decide) (by decide)).trans ?_
  refine Eq.trans (step_lift ['B', 'G', 'O', 'R'] (?_ : loopRun (honest ['Y', 'B', 'O', 'G']) 6 (some ['B', 'O', 'R', 'Y']) E13 [['B', 'G', 'O', 'R']] = (RunResult.solved ['Y', 'B', 'O', 'G'] 5, [['B', 'O', 'R', 'Y'], ['O', 'Y', 'G', 'R'], ['R', 'G', 'Y', 'B'], ['Y', 'B', 'O', 'G']]))) rfl
  refine (loopRun_step ['Y', 'B', 'O', 'G'] 6 5 ['B', 'O', 'R', 'Y'] E13 [['B', 'G', 'O', 'R']] 3 0 E69 ['O', 'Y', 'G', 'R'] [['B', 'G', 'O', 'R'], ['B', 'O', 'R', 'Y']] rfl ((calc_eq_fastP ['Y', 'B', 'O', 'G'] ['B', 'O', 'R', 'Y'] (by decide) (by decide)).trans (by decide)) (by decide) pe69 rfl nx69 (by decide) (by decide) (by decide)).trans ?_
  refine Eq.trans (step_lift ['B', 'O', 'R', 'Y'] (?_ : loopRun (honest ['Y', 'B', 'O', 'G']) 5 (some ['O', 'Y', 'G', 'R']) E69 [['B', 'G', 'O', 'R'], ['B', 'O', 'R', 'Y']] = (RunResult.solved ['Y', 'B', 'O', 'G'] 5, [['O', 'Y', 'G', 'R'], ['R', 'G', 'Y', 'B'], ['Y', 'B', 'O', 'G']]))) rfl
  refine (loopRun_step ['Y', 'B', 'O', 'G'] 5 4 ['O', 'Y', 'G', 'R'] E69 [['B', 'G', 'O', 'R'], ['B', 'O', 'R', 'Y']] 3 0 E199 ['R', 'G', 'Y', 'B'] [['B', 'G', 'O', 'R'], ['B', 'O', 'R', 'Y'], ['O', 'Y', 'G', 'R']] rfl ((calc_eq_fastP ['Y', 'B', 'O', 'G'] ['O', 'Y', 'G', 'R'] (by decide) (by decide)).trans (by decide)) (by decide) pe199 rfl nx199 (by decide) (by decide) (by decide)).trans ?_
  refine Eq.trans (step_lift ['O', 'Y', 'G', 'R'] (?_ : loopRun (honest ['Y', 'B', 'O', 'G']) 4 (some ['R', 'G', 'Y', 'B']) E199 [['B', 'G', 'O', 'R'], ['B', 'O', 'R', 'Y'], ['O', 'Y', 'G', 'R']] = (RunResult.solved ['Y', 'B', 'O', 'G'] 5, [['R', 'G', 'Y', 'B'], ['Y', 'B', 'O', 'G']]))) rfl
  refine (loopRun_step ['Y', 'B', 'O', 'G'] 4 3 ['R', 'G', 'Y', 'B'] E199 [['B', 'G', 'O', 'R'], ['B', 'O', 'R', 'Y'], ['O', 'Y', 'G', 'R']] 3 0 [['Y', 'B', 'O', 'G']] ['Y', 'B', 'O', 'G'] [['B', 'G', 'O', 'R'], ['B', 'O', 'R', 'Y'], ['O', 'Y', 'G', 'R'], ['R', 'G', 'Y', 'B']] rfl ((calc_eq_fastP ['Y', 'B', 'O', 'G'] ['R', 'G', 'Y', 'B'] (by decide) (by decide)).trans (by decide)) (by decide) pe243 rfl (findNextGuess_singleton ['Y', 'B', 'O', 'G'] [['B', 'G', 'O', 'R'], ['B', 'O', 'R', 'Y'], ['O', 'Y', 'G', 'R'], ['R', 'G', 'Y', 'B']]) (by decide) (by decide) (by decide)).trans ?_
  refine Eq.trans (step_lift ['R', 'G', 'Y', 'B'] (?_ : loopRun (honest ['Y', 'B', 'O', 'G']) 3 (some ['Y', 'B', 'O', 'G']) [['Y', 'B', 'O', 'G']] [['B', 'G', 'O', 'R'], ['B', 'O', 'R', 'Y'], ['O', 'Y', 'G', 'R'], ['R', 'G', 'Y', 'B']] = (RunResult.solved ['Y', 'B', 'O', 'G'] 5, [['Y', 'B', 'O', 'G']]))) rfl
  exact loopRun_last ['Y', 'B', 'O', 'G'] 3 2 [['Y', 'B', 'O', 'G']] [['B', 'G', 'O', 'R'], ['B', 'O', 'R', 'Y'], ['O', 'Y', 'G', 'R'], ['R', 'G', 'Y', 'B']] rfl rfl (by decide)

lemma rs244 : loopRun (honest ['Y', 'B', 'O', 'R']) 7 none S0 [] =
    (RunResult.solved ['Y', 'B', 'O', 'R'] 4, [['B', 'G', 'O', 'R'], ['B', 'G', 'R', 'Y'], ['G', 'Y', 'O', 'R'], ['Y', 'B', 'O', 'R']]) := by
  refine (loopRun_none' (honest ['Y', 'B', 'O', 'R']) 7 S0 []).trans ?_
  refine (loopRun_step ['Y', 'B', 'O', 'R'] 7 6 ['B', 'G', 'O', 'R'] S0 [] 1 2 E3 ['B', 'G', 'R', 'Y'] [['B', 'G', 'O', 'R']] rfl ((calc_eq_fastP ['Y', 'B', 'O', 'R'] ['B', 'G', 'O', 'R'] (by decide) (by decide)).trans (by decide)) (by decide) pe3 rfl nx3 (by decide) (by decide) (by decide)).trans ?_
  refine Eq.trans (step_lift ['B', 'G', 'O', 'R'] (?_ : loopRun (honest ['Y', 'B', 'O', 'R']) 6 (some ['B', 'G', 'R', 'Y']) E3 [['B', 'G', 'O', 'R']] = (RunResult.solved ['Y', 'B', 'O', 'R'] 4, [['B', 'G', 'R', 'Y'], ['G', 'Y', 'O', 'R'], ['Y', 'B', 'O', 'R']]))) rfl
  refine (loopRun_step ['Y', 'B', 'O', 'R'] 6 5 ['B', 'G', 'R', 'Y'] E3 [['B', 'G', 'O', 'R']] 3 0 E103 ['G', 'Y', 'O', 'R'] [['B', 'G', 'O', 'R'], ['B', 'G', 'R', 'Y']] rfl ((calc_eq_fastP ['Y', 'B', 'O', 'R'] ['B', 'G', 'R', 'Y'] (by decide) (by decide)).trans (by decide)) (by decide) pe103 rfl nx103 (by decide) (by decide) (by decide)).trans ?_
  refine Eq.trans (step_lift ['B', 'G', 'R', 'Y'] (?_ : loopRun (honest ['Y', 'B', 'O', 'R']) 5 (some ['G', 'Y', 'O', 'R']) E103 [['B', 'G', 'O', 'R'], ['B', 'G', 'R', 'Y']] = (RunResult.solved ['Y', 'B', 'O', 'R'] 4, [['G', 'Y', 'O', 'R'], ['Y', 'B', 'O', 'R']]))) rfl
  refine (loopRun_step ['Y', 'B', 'O', 'R'] 5 4 ['G', 'Y', 'O', 'R'] E103 [['B', 'G', 'O', 'R'], ['B', 'G', 'R', 'Y']] 1 2 [['Y', 'B', 'O', 'R']] ['Y', 'B', 'O', 'R'] [['B', 'G', 'O', 'R'], ['B', 'G', 'R', 'Y'], ['G', 'Y', 'O', 'R']] rfl ((calc_eq_fastP ['Y', 'B', 'O', 'R'] ['G', 'Y', 'O', 'R'] (by decide) (by decide)).trans (by decide)) (by decide) pe244 rfl (findNextGuess_singleton ['Y', 'B', 'O', 'R'] [['B', 'G', 'O', 'R'], ['B', 'G', 'R', 'Y'], ['G', 'Y', 'O', 'R']]) (by decide) (by decide) (by decide)).trans ?_
  refine Eq.trans (step_lift ['G', 'Y', 'O', 'R'] (?_ : loopRun (honest ['Y', 'B', 'O', 'R']) 4 (some ['Y', 'B', 'O', 'R']) [['Y', 'B', 'O', 'R']] [['B', 'G', 'O', 'R'], ['B', 'G', 'R', 'Y'], ['G', 'Y', 'O', 'R']] = (RunResult.solved ['Y', 'B', 'O', 'R'] 4, [['Y', 'B', 'O', 'R']]))) rfl
  exact loopRun_last ['Y', 'B', 'O', 'R'] 4 3 [['Y', 'B', 'O', 'R']] [['B', 'G', 'O', 'R'], ['B', 'G', 'R', 'Y'], ['G', 'Y', 'O', 'R']] rfl rfl (by decide)

lemma rs245 : loopRun (honest ['Y', 'B', 'O', 'P']) 7 none S0 [] =
    (RunResult.solved ['Y', 'B', 'O', 'P'] 4, [['B', 'G', 'O', 'R'], ['B', 'O', 'Y', 'P'], ['B', 'Y', 'P', 'O'], ['Y', 'B', 'O', 'P']]) := by
  refine (loopRun_none' (honest ['Y', 'B', 'O', 'P']) 7 S0 []).trans ?_
  refine (loopRun_step ['Y', 'B', 'O', 'P'] 7 6 ['B', 'G', 'O', 'R'] S0 [] 1 1 E20 ['B', 'O', 'Y', 'P'] [['B', 'G', 'O', 'R']] rfl ((calc_eq_fastP ['Y', 'B', 'O', 'P'] ['B', 'G', 'O', 'R'] (by decide) (by decide)).trans (by decide)) (by decide) pe20 rfl nx20 (by decide) (by decide) (by decide)).trans ?_
  refine Eq.trans (step_lift ['B', 'G', 'O', 'R'] (?_ : loopRun (honest ['Y', 'B', 'O', 'P']) 6 (some ['B', 'O', 'Y', 'P']) E20 [['B', 'G', 'O', 'R']] = (RunResult.solved ['Y', 'B', 'O', 'P'] 4, [['B', 'O', 'Y', 'P'], ['B', 'Y', 'P', 'O'], ['Y', 'B', 'O', 'P']]))) rfl
  refine (loopRun_step ['Y', 'B', 'O', 'P'] 6 5 ['B', 'O', 'Y', 'P'] E20 [['B', 'G', 'O', 'R']] 3 1 E46 ['B', 'Y', 'P', 'O'] [['B', 'G', 'O', 'R'], ['B', 'O', 'Y', 'P']] rfl ((calc_eq_fastP ['Y', 'B', 'O', 'P'] ['B', 'O', 'Y', 'P'] (by decide) (by decide)).trans (by decide)) (by decide) pe46 rfl nx46 (by decide) (by decide) (by decide)).trans ?_
  refine Eq.trans (step_lift ['B', 'O', 'Y', 'P'] (?_ : loopRun (honest ['Y', 'B', 'O', 'P']) 5 (some ['B', 'Y', 'P', 'O']) E46 [['B', 'G', 'O', 'R'], ['B', 'O', 'Y', 'P']] = (RunResult.solved ['Y', 'B', 'O', 'P'] 4, [['B', 'Y', 'P', 'O'], ['Y', 'B', 'O', 'P']]))) rfl
  refine (loopRun_step ['Y', 'B', 'O', 'P'] 5 4 ['B', 'Y', 'P', 'O'] E46 [['B', 'G', 'O', 'R'], ['B', 'O', 'Y', 'P']] 4 0 [['Y', 'B', 'O', 'P']] ['Y', 'B', 'O', 'P'] [['B', 'G', 'O', 'R'], ['B', 'O', 'Y', 'P'], ['B', 'Y', 'P', 'O']] rfl ((calc_eq_fastP ['Y', 'B', 'O', 'P'] ['B', 'Y', 'P', 'O'] (by decide) (by decide)).trans (by decide)) (by decide) pe245 rfl (findNextGuess_singleton ['Y', 'B', 'O', 'P'] [['B', 'G', 'O', 'R'], ['B', 'O', 'Y', 'P'], ['B', 'Y', 'P', 'O']]) (by decide) (by decide) (by decide)).trans ?_
  refine Eq.trans (step_lift ['B', 'Y', 'P', 'O'] (?_ : loopRun (honest ['Y', 'B', 'O', 'P']) 4 (some ['Y', 'B', 'O', 'P']) [['Y', 'B', 'O', 'P']] [['B', 'G', 'O', 'R'], ['B', 'O', 'Y', 'P'], ['B', 'Y', 'P', 'O']] = (RunResult.solved ['Y', 'B', 'O', 'P'] 4, [['Y', 'B', 'O', 'P']]))) rfl
  exact loopRun_last ['Y', 'B', 'O', 'P'] 4 3 [['Y', 'B', 'O', 'P']] [['B', 'G', 'O', 'R'], ['B', 'O', 'Y', 'P'], ['B', 'Y', 'P', 'O']] rfl rfl (by decide)

lemma rs246 : loopRun (honest ['Y', 'B', 'R', 'G']) 7 none S0 [] =
    (RunResult.solved ['Y', 'B', 'R', 'G'] 5, [['B', 'G', 'O', 'R'], ['G', 'O', 'R', 'Y'], ['G', 'B', 'Y', 'O'], ['R', 'B', 'G', 'Y'], ['Y', 'B', 'R', 'G']]) := by
  refine (loopRun_none' (honest ['Y', 'B', 'R', 'G']) 7 S0 []).trans ?_
  refine (loopRun_step ['Y', 'B', 'R', 'G'] 7 6 ['B', 'G', 'O', 'R'] S0 [] 3 0 E65 ['G', 'O', 'R', 'Y'] [['B', 'G', 'O', 'R']] rfl ((calc_eq_fastP ['Y', 'B', 'R', 'G'] ['B', 'G', 'O', 'R'] (by decide) (by decide)).trans (by decide)) (by decide) pe65 rfl nx65 (by decide) (by decide) (by decide)).trans ?_
  refine Eq.trans (step_lift ['B', 'G', 'O', 'R'] (?_ : loopRun (honest ['Y', 'B', 'R', 'G']) 6 (some ['G', 'O', 'R', 'Y']) E65 [['B', 'G', 'O', 'R']] = (RunResult.solved ['Y', 'B', 'R', 'G'] 5, [['G', 'O', 'R', 'Y'], ['G', 'B', 'Y', 'O'], ['R', 'B', 'G', 'Y'], ['Y', 'B', 'R', 'G']]))) rfl
  refine (loopRun_step ['Y', 'B', 'R', 'G'] 6 5 ['G', 'O', 'R', 'Y'] E65 [['B', 'G', 'O', 'R']] 2 1 E68 ['G', 'B', 'Y', 'O'] [['B', 'G', 'O', 'R'], ['G', 'O', 'R', 'Y']] rfl ((calc_eq_fastP ['Y', 'B', 'R', 'G'] ['G', 'O', 'R', 'Y'] (by decide) (by decide)).trans (by decide)) (by decide) pe68 rfl nx68 (by decide) (by decide) (by decide)).trans ?_
  refine Eq.trans (step_lift ['G', 'O', 'R', 'Y'] (?_ : loopRun (honest ['Y', 'B', 'R', 'G']) 5 (some ['G', 'B', 'Y', 'O']) E68 [['B', 'G', 'O', 'R'], ['G', 'O', 'R', 'Y']] = (RunResult.solved ['Y', 'B', 'R', 'G'] 5, [['G', 'B', 'Y', 'O'], ['R', 'B', 'G', 'Y'], ['Y', 'B', 'R', 'G']]))) rfl
  refine (loopRun_step ['Y', 'B', 'R', 'G'] 5 4 ['G', 'B', 'Y', 'O'] E68 [['B', 'G', 'O', 'R'], ['G', 'O', 'R', 'Y']] 2 1 E184 ['R', 'B', 'G', 'Y'] [['B', 'G', 'O', 'R'], ['G', 'O', 'R', 'Y'], ['G', 'B', 'Y', 'O']] rfl ((calc_eq_fastP ['Y', 'B', 'R', 'G'] ['G', 'B', 'Y', 'O'] (by decide) (by decide)).trans (by decide)) (by decide) pe184 rfl nx184 (by decide) (by decide) (by decide)).trans ?_
  refine Eq.trans (step_lift ['G', 'B', 'Y', 'O'] (?_ : loopRun (honest ['Y', 'B', 'R', 'G']) 4 (some ['R', 'B', 'G', 'Y']) E184 [['B', 'G', 'O', 'R'], ['G', 'O', 'R', 'Y'], ['G', 'B', 'Y', 'O']] = (RunResult.solved ['Y', 'B', 'R', 'G'] 5, [['R', 'B', 'G', 'Y'], ['Y', 'B', 'R', 'G']]))) rfl
  refine (loopRun_step ['Y', 'B', 'R', 'G'] 4 3 ['R', 'B', 'G', 'Y'] E184 [['B', 'G', 'O', 'R'], ['G', 'O', 'R', 'Y'], ['G', 'B', 'Y', 'O']] 3 1 [['Y', 'B', 'R', 'G']] ['Y', 'B', 'R', 'G'] [['B', 'G', 'O', 'R'], ['G', 'O', 'R', 'Y'], ['G', 'B', 'Y', 'O'], ['R', 'B', 'G', 'Y']] rfl ((calc_eq_fastP ['Y', 'B', 'R', 'G'] ['R', 'B', 'G', 'Y'] (by decide) (by decide)).trans (by decide)) (by decide) pe246 rfl (findNextGuess_singleton ['Y', 'B', 'R', 'G'] [['B', 'G', 'O', 'R'], ['G', 'O', 'R', 'Y'], ['G', 'B', 'Y', 'O'], ['R', 'B', 'G', 'Y']]) (by decide) (by decide) (by decide)).trans ?_
  refine Eq.trans (step_lift ['R', 'B', 'G', 'Y'] (?_ : loopRun (honest ['Y', 'B', 'R', 'G']) 3 (some ['Y', 'B', 'R', 'G']) [['Y', 'B', 'R', 'G']] [['B', 'G', 'O', 'R'], ['G', 'O', 'R', 'Y'], ['G', 'B', 'Y', 'O'], ['R', 'B', 'G', 'Y']] = (RunResult.solved ['Y', 'B', 'R', 'G'] 5, [['Y', 'B', 'R', 'G']]))) rfl
  exact loopRun_last ['Y', 'B', 'R', 'G'] 3 2 [['Y', 'B', 'R', 'G']] [['B', 'G', 'O', 'R'], ['G', 'O', 'R', 'Y'], ['G', 'B', 'Y', 'O'], ['R', 'B', 'G', 'Y']] rfl rfl (by decide)

lemma rs247 : loopRun (honest ['Y', 'B', 'R', 'O']) 7 none S0 [] =
    (RunResult.solved ['Y', 'B', 'R', 'O'] 5, [['B', 'G', 'O', 'R'], ['G', 'O', 'R', 'Y'], ['G', 'B', 'Y', 'O'], ['G', 'R', 'Y', 'B'], ['Y', 'B', 'R', 'O']]) := by
  refine (loopRun_none' (honest ['Y', 'B', 'R', 'O']) 7 S0 []).trans ?_
  refine (loopRun_step ['Y', 'B', 'R', 'O'] 7 6 ['B', 'G', 'O', 'R'] S0 [] 3 0 E65 ['G', 'O', 'R', 'Y'] [['B', 'G', 'O', 'R']] rfl ((calc_eq_fastP ['Y', 'B', 'R', 'O'] ['B', 'G', 'O', 'R'] (by decide) (by decide)).trans (by decide)) (by decide) pe65 rfl nx65 (by decide) (by decide) (by decide)).trans ?_
  refine Eq.trans (step_lift ['B', 'G', 'O', 'R'] (?_ : loopRun (honest ['Y', 'B', 'R', 'O']) 6 (some ['G', 'O', 'R', 'Y']) E65 [['B', 'G', 'O', 'R']] = (RunResult.solved ['Y', 'B', 'R', 'O'] 5, [['G', 'O', 'R', 'Y'], ['G', 'B', 'Y', 'O'], ['G', 'R', 'Y', 'B'], ['Y', 'B', 'R', 'O']]))) rfl
  refine (loopRun_step ['Y', 'B', 'R', 'O'] 6 5 ['G', 'O', 'R', 'Y'] E65 [['B', 'G', 'O', 'R']] 2 1 E68 ['G', 'B', 'Y', 'O'] [['B', 'G', 'O', 'R'], ['G', 'O', 'R', 'Y']] rfl ((calc_eq_fastP ['Y', 'B', 'R', 'O'] ['G', 'O', 'R', 'Y'] (by decide) (by decide)).trans (by decide)) (by decide) pe68 rfl nx68 (by decide) (by decide) (by decide)).trans ?_
  refine Eq.trans (step_lift ['G', 'O', 'R', 'Y'] (?_ : loopRun (honest ['Y', 'B', 'R', 'O']) 5 (some ['G', 'B', 'Y', 'O']) E68 [['B', 'G', 'O', 'R'], ['G', 'O', 'R', 'Y']] = (RunResult.solved ['Y', 'B', 'R', 'O'] 5, [['G', 'B', 'Y', 'O'], ['G', 'R', 'Y', 'B'], ['Y', 'B', 'R', 'O']]))) rfl
  refine (loopRun_step ['Y', 'B', 'R', 'O'] 5 4 ['G', 'B', 'Y', 'O'] E68 [['B', 'G', 'O', 'R'], ['G', 'O', 'R', 'Y']] 1 2 E94 ['G', 'R', 'Y', 'B'] [['B', 'G', 'O', 'R'], ['G', 'O', 'R', 'Y'], ['G', 'B', 'Y', 'O']] rfl ((calc_eq_fastP ['Y', 'B', 'R', 'O'] ['G', 'B', 'Y', 'O'] (by decide) (by decide)).trans (by decide)) (by decide) pe94 rfl nx94 (by decide) (by decide) (by decide)).trans ?_
  refine Eq.trans (step_lift ['G', 'B', 'Y', 'O'] (?_ : loopRun (honest ['Y', 'B', 'R', 'O']) 4 (some ['G', 'R', 'Y', 'B']) E94 [['B', 'G', 'O', 'R'], ['G', 'O', 'R', 'Y'], ['G', 'B', 'Y', 'O']] = (RunResult.solved ['Y', 'B', 'R', 'O'] 5, [['G', 'R', 'Y', 'B'], ['Y', 'B', 'R', 'O']]))) rfl
  refine (loopRun_step ['Y', 'B', 'R', 'O'] 4 3 ['G', 'R', 'Y', 'B'] E94 [['B', 'G', 'O', 'R'], ['G', 'O', 'R', 'Y'], ['G', 'B', 'Y', 'O']] 3 0 [['Y', 'B', 'R', 'O']] ['Y', 'B', 'R', 'O'] [['B', 'G', 'O', 'R'], ['G', 'O', 'R', 'Y'], ['G', 'B', 'Y', 'O'], ['G', 'R', 'Y', 'B']] rfl ((calc_eq_fastP ['Y', 'B', 'R', 'O'] ['G', 'R', 'Y', 'B'] (by decide) (by decide)).trans (by decide)) (by decide) pe247 rfl (findNextGuess_singleton ['Y', 'B', 'R', 'O'] [['B', 'G', 'O', 'R'], ['G', 'O', 'R', 'Y'], ['G', 'B', 'Y', 'O'], ['G', 'R', 'Y', 'B']]) (by decide) (by decide) (by decide)).trans ?_
  refine Eq.trans (step_lift ['G', 'R', 'Y', 'B'] (?_ : loopRun (honest ['Y', 'B', 'R', 'O']) 3 (some ['Y', 'B', 'R', 'O']) [['Y', 'B', 'R', 'O']] [['B', 'G', 'O', 'R'], ['G', 'O', 'R', 'Y'], ['G', 'B', 'Y', 'O'], ['G', 'R', 'Y', 'B']] = (RunResult.solved ['Y', 'B', 'R', 'O'] 5, [['Y', 'B', 'R', 'O']]))) rfl
  exact loopRun_last ['Y', 'B', 'R', 'O'] 3 2 [['Y', 'B', 'R', 'O']] [['B', 'G', 'O', 'R'], ['G', 'O', 'R', 'Y'], ['G', 'B', 'Y', 'O'], ['G', 'R', 'Y', 'B']] rfl rfl (by decide)

lemma rs248 : loopRun (honest ['Y', 'B', 'R', 'P']) 7 none S0 [] =
    (RunResult.solved ['Y', 'B', 'R', 'P'] 5, [['B', 'G', 'O', 'R'], ['G', 'Y', 'R', 'P'], ['G', 'O', 'Y', 'P'], ['R', 'Y', 'B', 'P'], ['Y', 'B', 'R', 'P']]) := by
  refine (loopRun_none' (honest ['Y', 'B', 'R', 'P']) 7 S0 []).trans ?_
  refine (loopRun_step ['Y', 'B', 'R', 'P'] 7 6 ['B', 'G', 'O', 'R'] S0 [] 2 0 E72 ['G', 'Y', 'R', 'P'] [['B', 'G', 'O', 'R']] rfl ((calc_eq_fastP ['Y', 'B', 'R', 'P'] ['B', 'G', 'O', 'R'] (by decide) (by decide)).trans (by decide)) (by decide) pe72 rfl nx72 (by decide) (by decide) (by decide)).trans ?_
  refine Eq.trans (step_lift ['B', 'G', 'O', 'R'] (?_ : loopRun (honest ['Y', 'B', 'R', 'P']) 6 (some ['G', 'Y', 'R', 'P']) E72 [['B', 'G', 'O', 'R']] = (RunResult.solved ['Y', 'B', 'R', 'P'] 5, [['G', 'Y', 'R', 'P'], ['G', 'O', 'Y', 'P'], ['R', 'Y', 'B', 'P'], ['Y', 'B', 'R', 'P']]))) rfl
  refine (loopRun_step ['Y', 'B', 'R', 'P'] 6 5 ['G', 'Y', 'R', 'P'] E72 [['B', 'G', 'O', 'R']] 1 2 E73 ['G', 'O', 'Y', 'P'] [['B', 'G', 'O', 'R'], ['G', 'Y', 'R', 'P']] rfl ((calc_eq_fastP ['Y', 'B', 'R', 'P'] ['G', 'Y', 'R', 'P'] (by decide) (by decide)).trans (by decide)) (by decide) pe73 rfl nx73 (by decide) (by decide) (by decide)).trans ?_
  refine Eq.trans (step_lift ['G', 'Y', 'R', 'P'] (?_ : loopRun (honest ['Y', 'B', 'R', 'P']) 5 (some ['G', 'O', 'Y', 'P']) E73 [['B', 'G', 'O', 'R'], ['G', 'Y', 'R', 'P']] = (RunResult.solved ['Y', 'B', 'R', 'P'] 5, [['G', 'O', 'Y', 'P'], ['R', 'Y', 'B', 'P'], ['Y', 'B', 'R', 'P']]))) rfl
  refine (loopRun_step ['Y', 'B', 'R', 'P'] 5 4 ['G', 'O', 'Y', 'P'] E73 [['B', 'G', 'O', 'R'], ['G', 'Y', 'R', 'P']] 1 1 E218 ['R', 'Y', 'B', 'P'] [['B', 'G', 'O', 'R'], ['G', 'Y', 'R', 'P'], ['G', 'O', 'Y', 'P']] rfl ((calc_eq_fastP ['Y', 'B', 'R', 'P'] ['G', 'O', 'Y', 'P'] (by decide) (by decide)).trans (by decide)) (by decide) pe218 rfl nx218 (by decide) (by decide) (by decide)).trans ?_
  refine Eq.trans (step_lift ['G', 'O', 'Y', 'P'] (?_ : loopRun (honest ['Y', 'B', 'R', 'P']) 4 (some ['R', 'Y', 'B', 'P']) E218 [['B', 'G', 'O', 'R'], ['G', 'Y', 'R', 'P'], ['G', 'O', 'Y', 'P']] = (RunResult.solved ['Y', 'B', 'R', 'P'] 5, [['R', 'Y', 'B', 'P'], ['Y', 'B', 'R', 'P']]))) rfl
  refine (loopRun_step ['Y', 'B', 'R', 'P'] 4 3 ['R', 'Y', 'B', 'P'] E218 [['B', 'G', 'O', 'R'], ['G', 'Y', 'R', 'P'], ['G', 'O', 'Y', 'P']] 3 1 [['Y', 'B', 'R', 'P']] ['Y', 'B', 'R', 'P'] [['B', 'G', 'O', 'R'], ['G', 'Y', 'R', 'P'], ['G', 'O', 'Y', 'P'], ['R', 'Y', 'B', 'P']] rfl ((calc_eq_fastP ['Y', 'B', 'R', 'P'] ['R', 'Y', 'B', 'P'] (by decide) (by decide)).trans (by decide)) (by decide) pe248 rfl (findNextGuess_singleton ['Y', 'B', 'R', 'P'] [['B', 'G', 'O', 'R'], ['G', 'Y', 'R', 'P'], ['G', 'O', 'Y', 'P'], ['R', 'Y', 'B', 'P']]) (by decide) (by decide) (by decide)).trans ?_
  refine Eq.trans (step_lift ['R', 'Y', 'B', 'P'] (?_ : loopRun (honest ['Y', 'B', 'R', 'P']) 3 (some ['Y', 'B', 'R', 'P']) [['Y', 'B', 'R', 'P']] [['B', 'G', 'O', 'R'], ['G', 'Y', 'R', 'P'], ['G', 'O', 'Y', 'P'], ['R', 'Y', 'B', 'P']] = (RunResult.solved ['Y', 'B', 'R', 'P'] 5, [['Y', 'B', 'R', 'P']]))) rfl
  exact loopRun_last ['Y', 'B', 'R', 'P'] 3 2 [['Y', 'B', 'R', 'P']] [['B', 'G', 'O', 'R'], ['G', 'Y', 'R', 'P'], ['G', 'O', 'Y', 'P'], ['R', 'Y', 'B', 'P']] rfl rfl (by decide)

lemma rs249 : loopRun (honest ['Y', 'B', 'P', 'G']) 7 none S0 [] =
    (RunResult.solved ['Y', 'B', 'P', 'G'] 4, [['B', 'G', 'O', 'R'], ['G', 'Y', 'R', 'P'], ['R', 'B', 'P', 'Y'], ['Y', 'B', 'P', 'G']]) := by
  refine (loopRun_none' (honest ['Y', 'B', 'P', 'G']) 7 S0 []).trans ?_
  refine (loopRun_step ['Y', 'B', 'P', 'G'] 7 6 ['B', 'G', 'O', 'R'] S0 [] 2 0 E72 ['G', 'Y', 'R', 'P'] [['B', 'G', 'O', 'R']] rfl ((calc_eq_fastP ['Y', 'B', 'P', 'G'] ['B', 'G', 'O', 'R'] (by decide) (by decide)).trans (by decide)) (by decide) pe72 rfl nx72 (by decide) (by decide) (by decide)).trans ?_
  refine Eq.trans (step_lift ['B', 'G', 'O', 'R'] (?_ : loopRun (honest ['Y', 'B', 'P', 'G']) 6 (some ['G', 'Y', 'R', 'P']) E72 [['B', 'G', 'O', 'R']] = (RunResult.solved ['Y', 'B', 'P', 'G'] 4, [['G', 'Y', 'R', 'P'], ['R', 'B', 'P', 'Y'], ['Y', 'B', 'P', 'G']]))) rfl
  refine (loopRun_step ['Y', 'B', 'P', 'G'] 6 5 ['G', 'Y', 'R', 'P'] E72 [['B', 'G', 'O', 'R']] 3 0 E158 ['R', 'B', 'P', 'Y'] [['B', 'G', 'O', 'R'], ['G', 'Y', 'R', 'P']] rfl ((calc_eq_fastP ['Y', 'B', 'P', 'G'] ['G', 'Y', 'R', 'P'] (by decide) (by decide)).trans (by decide)) (by decide) pe158 rfl nx158 (by decide) (by decide) (by decide)).trans ?_
  refine Eq.trans (step_lift ['G', 'Y', 'R', 'P'] (?_ : loopRun (honest ['Y', 'B', 'P', 'G']) 5 (some ['R', 'B', 'P', 'Y']) E158 [['B', 'G', 'O', 'R'], ['G', 'Y', 'R', 'P']] = (RunResult.solved ['Y', 'B', 'P', 'G'] 4, [['R', 'B', 'P', 'Y'], ['Y', 'B', 'P', 'G']]))) rfl
  refine (loopRun_step ['Y', 'B', 'P', 'G'] 5 4 ['R', 'B', 'P', 'Y'] E158 [['B', 'G', 'O', 'R'], ['G', 'Y', 'R', 'P']] 1 2 E159 ['Y', 'B', 'P', 'G'] [['B', 'G', 'O', 'R'], ['G', 'Y', 'R', 'P'], ['R', 'B', 'P', 'Y']] rfl ((calc_eq_fastP ['Y', 'B', 'P', 'G'] ['R', 'B', 'P', 'Y'] (by decide) (by decide)).trans (by decide)) (by decide) pe159 rfl nx159 (by decide) (by decide) (by decide)).trans ?_
  refine Eq.trans (step_lift ['R', 'B', 'P', 'Y'] (?_ : loopRun (honest ['Y', 'B', 'P', 'G']) 4 (some ['Y', 'B', 'P', 'G']) E159 [['B', 'G', 'O', 'R'], ['G', 'Y', 'R', 'P'], ['R', 'B', 'P', 'Y']] = (RunResult.solved ['Y', 'B', 'P', 'G'] 4, [['Y', 'B', 'P', 'G']]))) rfl
  exact loopRun_last ['Y', 'B', 'P', 'G'] 4 3 E159 [['B', 'G', 'O', 'R'], ['G', 'Y', 'R', 'P'], ['R', 'B', 'P', 'Y']] rfl rfl (by decide)

lemma rs250 : loopRun (honest ['Y', 'B', 'P', 'O']) 7 none S0 [] =
    (RunResult.solved ['Y', 'B', 'P', 'O'] 5, [['B', 'G', 'O', 'R'], ['G', 'Y', 'R', 'P'], ['O', 'B', 'P', 'Y'], ['O', 'P', 'B', 'Y'], ['Y', 'B', 'P', 'O']]) := by
  refine (loopRun_none' (honest ['Y', 'B', 'P', 'O']) 7 S0 []).trans ?_
  refine (loopRun_step ['Y', 'B', 'P', 'O'] 7 6 ['B', 'G', 'O', 'R'] S0 [] 2 0 E72 ['G', 'Y', 'R', 'P'] [['B', 'G', 'O', 'R']] rfl ((calc_eq_fastP ['Y', 'B', 'P', 'O'] ['B', 'G', 'O', 'R'] (by decide) (by decide)).trans (by decide)) (by decide) pe72 rfl nx72 (by decide) (by decide) (by decide)).trans ?_
  refine Eq.trans (step_lift ['B', 'G', 'O', 'R'] (?_ : loopRun (honest ['Y', 'B', 'P', 'O']) 6 (some ['G', 'Y', 'R', 'P']) E72 [['B', 'G', 'O', 'R']] = (RunResult.solved ['Y', 'B', 'P', 'O'] 5, [['G', 'Y', 'R', 'P'], ['O', 'B', 'P', 'Y'], ['O', 'P', 'B', 'Y'], ['Y', 'B', 'P', 'O']]))) rfl
  refine (loopRun_step ['Y', 'B', 'P', 'O'] 6 5 ['G', 'Y', 'R', 'P'] E72 [['B', 'G', 'O', 'R']] 2 0 E133 ['O', 'B', 'P', 'Y'] [['B', 'G', 'O', 'R'], ['G', 'Y', 'R', 'P']] rfl ((calc_eq_fastP ['Y', 'B', 'P', 'O'] ['G', 'Y', 'R', 'P'] (by decide) (by decide)).trans (by decide)) (by decide) pe133 rfl nx133 (by decide) (by decide) (by decide)).trans ?_
  refine Eq.trans (step_lift ['G', 'Y', 'R', 'P'] (?_ : loopRun (honest ['Y', 'B', 'P', 'O']) 5 (some ['O', 'B', 'P', 'Y']) E133 [['B', 'G', 'O', 'R'], ['G', 'Y', 'R', 'P']] = (RunResult.solved ['Y', 'B', 'P', 'O'] 5, [['O', 'B', 'P', 'Y'], ['O', 'P', 'B', 'Y'], ['Y', 'B', 'P', 'O']]))) rfl
  refine (loopRun_step ['Y', 'B', 'P', 'O'] 5 4 ['O', 'B', 'P', 'Y'] E133 [['B', 'G', 'O', 'R'], ['G', 'Y', 'R', 'P']] 2 2 E173 ['O', 'P', 'B', 'Y'] [['B', 'G', 'O', 'R'], ['G', 'Y', 'R', 'P'], ['O', 'B', 'P', 'Y']] rfl ((calc_eq_fastP ['Y', 'B', 'P', 'O'] ['O', 'B', 'P', 'Y'] (by decide) (by decide)).trans (by decide)) (by decide) pe173 rfl nx173 (by decide) (by decide) (by decide)).trans ?_
  refine Eq.trans (step_lift ['O', 'B', 'P', 'Y'] (?_ : loopRun (honest ['Y', 'B', 'P', 'O']) 4 (some ['O', 'P', 'B', 'Y']) E173 [['B', 'G', 'O', 'R'], ['G', 'Y', 'R', 'P'], ['O', 'B', 'P', 'Y']] = (RunResult.solved ['Y', 'B', 'P', 'O'] 5, [['O', 'P', 'B', 'Y'], ['Y', 'B', 'P', 'O']]))) rfl
  refine (loopRun_step ['Y', 'B', 'P', 'O'] 4 3 ['O', 'P', 'B', 'Y'] E173 [['B', 'G', 'O', 'R'], ['G', 'Y', 'R', 'P'], ['O', 'B', 'P', 'Y']] 4 0 [['Y', 'B', 'P', 'O']] ['Y', 'B', 'P', 'O'] [['B', 'G', 'O', 'R'], ['G', 'Y', 'R', 'P'], ['O', 'B', 'P', 'Y'], ['O', 'P', 'B', 'Y']] rfl ((calc_eq_fastP ['Y', 'B', 'P', 'O'] ['O', 'P', 'B', 'Y'] (by decide) (by decide)).trans (by decide)) (by decide) pe249 rfl (findNextGuess_singleton ['Y', 'B', 'P', 'O'] [['B', 'G', 'O', 'R'], ['G', 'Y', 'R', 'P'], ['O', 'B', 'P', 'Y'], ['O', 'P', 'B', 'Y']]) (by decide) (by decide) (by decide)).trans ?_
  refine Eq.trans (step_lift ['O', 'P', 'B', 'Y'] (?_ : loopRun (honest ['Y', 'B', 'P', 'O']) 3 (some ['Y', 'B', 'P', 'O']) [['Y', 'B', 'P', 'O']] [['B', 'G', 'O', 'R'], ['G', 'Y', 'R', 'P'], ['O', 'B', 'P', 'Y'], ['O', 'P', 'B', 'Y']] = (RunResult.solved ['Y', 'B', 'P', 'O'] 5, [['Y', 'B', 'P', 'O']]))) rfl
  exact loopRun_last ['Y', 'B', 'P', 'O'] 3 2 [['Y', 'B', 'P', 'O']] [['B', 'G', 'O', 'R'], ['G', 'Y', 'R', 'P'], ['O', 'B', 'P', 'Y'], ['O', 'P', 'B', 'Y']] rfl rfl (by decide)

lemma rs251 : loopRun (honest ['Y', 'B', 'P', 'R']) 7 none S0 [] =
    (RunResult.solved ['Y', 'B', 'P', 'R'] 4, [['B', 'G', 'O', 'R'], ['B', 'O', 'Y', 'P'], ['G', 'P', 'O', 'Y'], ['Y', 'B', 'P', 'R']]) := by
  refine (loopRun_none' (honest ['Y', 'B', 'P', 'R']) 7 S0 []).trans ?_
  refine (loopRun_step ['Y', 'B', 'P', 'R'] 7 6 ['B', 'G', 'O', 'R'] S0 [] 1 1 E20 ['B', 'O', 'Y', 'P'] [['B', 'G', 'O', 'R']] rfl ((calc_eq_fastP ['Y', 'B', 'P', 'R'] ['B', 'G', 'O', 'R'] (by decide) (by decide)).trans (by decide)) (by decide) pe20 rfl nx20 (by decide) (by decide) (by decide)).trans ?_
  refine Eq.trans (step_lift ['B', 'G', 'O', 'R'] (?_ : loopRun (honest ['Y', 'B', 'P', 'R']) 6 (some ['B', 'O', 'Y', 'P']) E20 [['B', 'G', 'O', 'R']] = (RunResult.solved ['Y', 'B', 'P', 'R'] 4, [['B', 'O', 'Y', 'P'], ['G', 'P', 'O', 'Y'], ['Y', 'B', 'P', 'R']]))) rfl
  refine (loopRun_step ['Y', 'B', 'P', 'R'] 6 5 ['B', 'O', 'Y', 'P'] E20 [['B', 'G', 'O', 'R']] 3 0 E114 ['G', 'P', 'O', 'Y'] [['B', 'G', 'O', 'R'], ['B', 'O', 'Y', 'P']] rfl ((calc_eq_fastP ['Y', 'B', 'P', 'R'] ['B', 'O', 'Y', 'P'] (by decide) (by decide)).trans (by decide)) (by decide) pe114 rfl nx114 (by decide) (by decide) (by decide)).trans ?_
  refine Eq.trans (step_lift ['B', 'O', 'Y', 'P'] (?_ : loopRun (honest ['Y', 'B', 'P', 'R']) 5 (some ['G', 'P', 'O', 'Y']) E114 [['B', 'G', 'O', 'R'], ['B', 'O', 'Y', 'P']] = (RunResult.solved ['Y', 'B', 'P', 'R'] 4, [['G', 'P', 'O', 'Y'], ['Y', 'B', 'P', 'R']]))) rfl
  refine (loopRun_step ['Y', 'B', 'P', 'R'] 5 4 ['G', 'P', 'O', 'Y'] E114 [['B', 'G', 'O', 'R'], ['B', 'O', 'Y', 'P']] 2 0 E250 ['Y', 'B', 'P', 'R'] [['B', 'G', 'O', 'R'], ['B', 'O', 'Y', 'P'], ['G', 'P', 'O', 'Y']] rfl ((calc_eq_fastP ['Y', 'B', 'P', 'R'] ['G', 'P', 'O', 'Y'] (by decide) (by decide)).trans (by decide)) (by decide) pe250 rfl nx250 (by decide) (by decide) (by decide)).trans ?_
  refine Eq.trans (step_lift ['G', 'P', 'O', 'Y'] (?_ : loopRun (honest ['Y', 'B', 'P', 'R']) 4 (some ['Y', 'B', 'P', 'R']) E250 [['B', 'G', 'O', 'R'], ['B', 'O', 'Y', 'P'], ['G', 'P', 'O', 'Y']] = (RunResult.solved ['Y', 'B', 'P', 'R'] 4, [['Y', 'B', 'P', 'R']]))) rfl
  exact loopRun_last ['Y', 'B', 'P', 'R'] 4 3 E250 [['B', 'G', 'O', 'R'], ['B', 'O', 'Y', 'P'], ['G', 'P', 'O', 'Y']] rfl rfl (by decide)

lemma rs252 : loopRun (honest ['Y', 'G', 'B', 'O']) 7 none S0 [] =
    (RunResult.solved ['Y', 'G', 'B', 'O'] 5, [['B', 'G', 'O', 'R'], ['B', 'O', 'R', 'Y'], ['O', 'Y', 'G', 'R'], ['R', 'G', 'Y', 'B'], ['Y', 'G', 'B', 'O']]) := by
  refine (loopRun_none' (honest ['Y', 'G', 'B', 'O']) 7 S0 []).trans ?_
  refine (loopRun_step ['Y', 'G', 'B', 'O'] 7 6 ['B', 'G', 'O', 'R'] S0 [] 2 1 E13 ['B', 'O', 'R', 'Y'] [['B', 'G', 'O', 'R']] rfl ((calc_eq_fastP ['Y', 'G', 'B', 'O'] ['B', 'G', 'O', 'R'] (by decide) (by decide)).trans (by decide)) (by decide) pe13 rfl nx13 (by decide) (by decide) (by decide)).trans ?_
  refine Eq.trans (step_lift ['B', 'G', 'O', 'R'] (?_ : loopRun (honest ['Y', 'G', 'B', 'O']) 6 (some ['B', 'O', 'R', 'Y']) E13 [['B', 'G', 'O', 'R']] = (RunResult.solved ['Y', 'G', 'B', 'O'] 5, [['B', 'O', 'R', 'Y'], ['O', 'Y', 'G', 'R'], ['R', 'G', 'Y', 'B'], ['Y', 'G', 'B', 'O']]))) rfl
  refine (loopRun_step ['Y', 'G', 'B', 'O'] 6 5 ['B', 'O', 'R', 'Y'] E13 [['B', 'G', 'O', 'R']] 3 0 E69 ['O', 'Y', 'G', 'R'] [['B', 'G', 'O', 'R'], ['B', 'O', 'R', 'Y']] rfl ((calc_eq_fastP ['Y', 'G', 'B', 'O'] ['B', 'O', 'R', 'Y'] (by decide) (by decide)).trans (by decide)) (by decide) pe69 rfl nx69 (by decide) (by decide) (by decide)).trans ?_
  refine Eq.trans (step_lift ['B', 'O', 'R', 'Y'] (?_ : loopRun (honest ['Y', 'G', 'B', 'O']) 5 (some ['O', 'Y', 'G', 'R']) E69 [['B', 'G', 'O', 'R'], ['B', 'O', 'R', 'Y']] = (RunResult.solved ['Y', 'G', 'B', 'O'] 5, [['O', 'Y', 'G', 'R'], ['R', 'G', 'Y', 'B'], ['Y', 'G', 'B', 'O']]))) rfl
  refine (loopRun_step ['Y', 'G', 'B', 'O'] 5 4 ['O', 'Y', 'G', 'R'] E69 [['B', 'G', 'O', 'R'], ['B', 'O', 'R', 'Y']] 3 0 E199 ['R', 'G', 'Y', 'B'] [['B', 'G', 'O', 'R'], ['B', 'O', 'R', 'Y'], ['O', 'Y', 'G', 'R']] rfl ((calc_eq_fastP ['Y', 'G', 'B', 'O'] ['O', 'Y', 'G', 'R'] (by decide) (by decide)).trans (by decide)) (by decide) pe199 rfl nx199 (by decide) (by decide) (by decide)).trans ?_
  refine Eq.trans (step_lift ['O', 'Y', 'G', 'R'] (?_ : loopRun (honest ['Y', 'G', 'B', 'O']) 4 (some ['R', 'G', 'Y', 'B']) E199 [['B', 'G', 'O', 'R'], ['B', 'O', 'R', 'Y'], ['O', 'Y', 'G', 'R']] = (RunResult.solved ['Y', 'G', 'B', 'O'] 5, [['R', 'G', 'Y', 'B'], ['Y', 'G', 'B', 'O']]))) rfl
  refine (loopRun_step ['Y', 'G', 'B', 'O'] 4 3 ['R', 'G', 'Y', 'B'] E199 [['B', 'G', 'O', 'R'], ['B', 'O', 'R', 'Y'], ['O', 'Y', 'G', 'R']] 2 1 [['Y', 'G', 'B', 'O']] ['Y', 'G', 'B', 'O'] [['B', 'G', 'O', 'R'], ['B', 'O', 'R', 'Y'], ['O', 'Y', 'G', 'R'], ['R', 'G', 'Y', 'B']] rfl ((calc_eq_fastP ['Y', 'G', 'B', 'O'] ['R', 'G', 'Y', 'B'] (by decide) (by decide)).trans (by decide)) (by decide) pe251 rfl (findNextGuess_singleton ['Y', 'G', 'B', 'O'] [['B', 'G', 'O', 'R'], ['B', 'O', 'R', 'Y'], ['O', 'Y', 'G', 'R'], ['R', 'G', 'Y', 'B']]) (by decide) (by decide) (by decide)).trans ?_
  refine Eq.trans (step_lift ['R', 'G', 'Y', 'B'] (?_ : loopRun (honest ['Y', 'G', 'B', 'O']) 3 (some ['Y', 'G', 'B', 'O']) [['Y', 'G', 'B', 'O']] [['B', 'G', 'O', 'R'], ['B', 'O', 'R', 'Y'], ['O', 'Y', 'G', 'R'], ['R', 'G', 'Y', 'B']] = (RunResult.solved ['Y', 'G', 'B', 'O'] 5, [['Y', 'G', 'B', 'O']]))) rfl
  exact loopRun_last ['Y', 'G', 'B', 'O'] 3 2 [['Y', 'G', 'B', 'O']] [['B', 'G', 'O', 'R'], ['B', 'O', 'R', 'Y'], ['O', 'Y', 'G', 'R'], ['R', 'G', 'Y', 'B']] rfl rfl (by decide)

lemma rs253 : loopRun (honest ['Y', 'G', 'B', 'R']) 7 none S0 [] =
    (RunResult.solved ['Y', 'G', 'B', 'R'] 4, [['B', 'G', 'O', 'R'], ['B', 'G', 'R', 'Y'], ['B', 'Y', 'G', 'R'], ['Y', 'G', 'B', 'R']]) := by
  refine (loopRun_none' (honest ['Y', 'G', 'B', 'R']) 7 S0 []).trans ?_
  refine (loopRun_step ['Y', 'G', 'B', 'R'] 7 6 ['B', 'G', 'O', 'R'] S0 [] 1 2 E3 ['B', 'G', 'R', 'Y'] [['B', 'G', 'O', 'R']] rfl ((calc_eq_fastP ['Y', 'G', 'B', 'R'] ['B', 'G', 'O', 'R'] (by decide) (by decide)).trans (by decide)) (by decide) pe3 rfl nx3 (by decide) (by decide) (by decide)).trans ?_
  refine Eq.trans (step_lift ['B', 'G', 'O', 'R'] (?_ : loopRun (honest ['Y', 'G', 'B', 'R']) 6 (some ['B', 'G', 'R', 'Y']) E3 [['B', 'G', 'O', 'R']] = (RunResult.solved ['Y', 'G', 'B', 'R'] 4, [['B', 'G', 'R', 'Y'], ['B', 'Y', 'G', 'R'], ['Y', 'G', 'B', 'R']]))) rfl
  refine (loopRun_step ['Y', 'G', 'B', 'R'] 6 5 ['B', 'G', 'R', 'Y'] E3 [['B', 'G', 'O', 'R']] 3 1 E38 ['B', 'Y', 'G', 'R'] [['B', 'G', 'O', 'R'], ['B', 'G', 'R', 'Y']] rfl ((calc_eq_fastP ['Y', 'G', 'B', 'R'] ['B', 'G', 'R', 'Y'] (by decide) (by decide)).trans (by decide)) (by decide) pe38 rfl nx38 (by decide) (by decide) (by decide)).trans ?_
  refine Eq.trans (step_lift ['B', 'G', 'R', 'Y'] (?_ : loopRun (honest ['Y', 'G', 'B', 'R']) 5 (some ['B', 'Y', 'G', 'R']) E38 [['B', 'G', 'O', 'R'], ['B', 'G', 'R', 'Y']] = (RunResult.solved ['Y', 'G', 'B', 'R'] 4, [['B', 'Y', 'G', 'R'], ['Y', 'G', 'B', 'R']]))) rfl
  refine (loopRun_step ['Y', 'G', 'B', 'R'] 5 4 ['B', 'Y', 'G', 'R'] E38 [['B', 'G', 'O', 'R'], ['B', 'G', 'R', 'Y']] 3 1 [['Y', 'G', 'B', 'R']] ['Y', 'G', 'B', 'R'] [['B', 'G', 'O', 'R'], ['B', 'G', 'R', 'Y'], ['B', 'Y', 'G', 'R']] rfl ((calc_eq_fastP ['Y', 'G', 'B', 'R'] ['B', 'Y', 'G', 'R'] (by decide) (by decide)).trans (by decide)) (by decide) pe252 rfl (findNextGuess_singleton ['Y', 'G', 'B', 'R'] [['B', 'G', 'O', 'R'], ['B', 'G', 'R', 'Y'], ['B', 'Y', 'G', 'R']]) (by decide) (by decide) (by decide)).trans ?_
  refine Eq.trans (step_lift ['B', 'Y', 'G', 'R'] (?_ : loopRun (honest ['Y', 'G', 'B', 'R']) 4 (some ['Y', 'G', 'B', 'R']) [['Y', 'G', 'B', 'R']] [['B', 'G', 'O', 'R'], ['B', 'G', 'R', 'Y'], ['B', 'Y', 'G', 'R']] = (RunResult.solved ['Y', 'G', 'B', 'R'] 4, [['Y', 'G', 'B', 'R']]))) rfl
  exact loopRun_last ['Y', 'G', 'B', 'R'] 4 3 [['Y', 'G', 'B', 'R']] [['B', 'G', 'O', 'R'], ['B', 'G', 'R', 'Y'], ['B', 'Y', 'G', 'R']] rfl rfl (by decide)

lemma rs254 : loopRun (honest ['Y', 'G', 'B', 'P']) 7 none S0 [] =
    (RunResult.solved ['Y', 'G', 'B', 'P'] 4, [['B', 'G', 'O', 'R'], ['B', 'O', 'Y', 'P'], ['B', 'Y', 'P', 'G'], ['Y', 'G', 'B', 'P']]) := by
  refine (loopRun_none' (honest ['Y', 'G', 'B', 'P']) 7 S0 []).trans ?_
  refine (loopRun_step ['Y', 'G', 'B', 'P'] 7 6 ['B', 'G', 'O', 'R'] S0 [] 1 1 E20 ['B', 'O', 'Y', 'P'] [['B', 'G', 'O', 'R']] rfl ((calc_eq_fastP ['Y', 'G', 'B', 'P'] ['B', 'G', 'O', 'R'] (by decide) (by decide)).trans (by decide)) (by decide) pe20 rfl nx20 (by decide) (by decide) (by decide)).trans ?_
  refine Eq.trans (step_lift ['B', 'G', 'O', 'R'] (?_ : loopRun (honest ['Y', 'G', 'B', 'P']) 6 (some ['B', 'O', 'Y', 'P']) E20 [['B', 'G', 'O', 'R']] = (RunResult.solved ['Y', 'G', 'B', 'P'] 4, [['B', 'O', 'Y', 'P'], ['B', 'Y', 'P', 'G'], ['Y', 'G', 'B', 'P']]))) rfl
  refine (loopRun_step ['Y', 'G', 'B', 'P'] 6 5 ['B', 'O', 'Y', 'P'] E20 [['B', 'G', 'O', 'R']] 2 1 E35 ['B', 'Y', 'P', 'G'] [['B', 'G', 'O', 'R'], ['B', 'O', 'Y', 'P']] rfl ((calc_eq_fastP ['Y', 'G', 'B', 'P'] ['B', 'O', 'Y', 'P'] (by decide) (by decide)).trans (by decide)) (by decide) pe35 rfl nx35 (by decide) (by decide) (by decide)).trans ?_
  refine Eq.trans (step_lift ['B', 'O', 'Y', 'P'] (?_ : loopRun (honest ['Y', 'G', 'B', 'P']) 5 (some ['B', 'Y', 'P', 'G']) E35 [['B', 'G', 'O', 'R'], ['B', 'O', 'Y', 'P']] = (RunResult.solved ['Y', 'G', 'B', 'P'] 4, [['B', 'Y', 'P', 'G'], ['Y', 'G', 'B', 'P']]))) rfl
  refine (loopRun_step ['Y', 'G', 'B', 'P'] 5 4 ['B', 'Y', 'P', 'G'] E35 [['B', 'G', 'O', 'R'], ['B', 'O', 'Y', 'P']] 4 0 E253 ['Y', 'G', 'B', 'P'] [['B', 'G', 'O', 'R'], ['B', 'O', 'Y', 'P'], ['B', 'Y', 'P', 'G']] rfl ((calc_eq_fastP ['Y', 'G', 'B', 'P'] ['B', 'Y', 'P', 'G'] (by decide) (by decide)).trans (by decide)) (by decide) pe253 rfl nx253 (by decide) (by decide) (by decide)).trans ?_
  refine Eq.trans (step_lift ['B', 'Y', 'P', 'G'] (?_ : loopRun (honest ['Y', 'G', 'B', 'P']) 4 (some ['Y', 'G', 'B', 'P']) E253 [['B', 'G', 'O', 'R'], ['B', 'O', 'Y', 'P'], ['B', 'Y', 'P', 'G']] = (RunResult.solved ['Y', 'G', 'B', 'P'] 4, [['Y', 'G', 'B', 'P']]))) rfl
  exact loopRun_last ['Y', 'G', 'B', 'P'] 4 3 E253 [['B', 'G', 'O', 'R'], ['B', 'O', 'Y', 'P'], ['B', 'Y', 'P', 'G']] rfl rfl (by decide)

lemma rs255 : loopRun (honest ['Y', 'G', 'O', 'B']) 7 none S0 [] =
    (RunResult.solved ['Y', 'G', 'O', 'B'] 4, [['B', 'G', 'O', 'R'], ['B', 'G', 'R', 'Y'], ['B', 'O', 'Y', 'R'], ['Y', 'G', 'O', 'B']]) := by
  refine (loopRun_none' (honest ['Y', 'G', 'O', 'B']) 7 S0 []).trans ?_
  refine (loopRun_step ['Y', 'G', 'O', 'B'] 7 6 ['B', 'G', 'O', 'R'] S0 [] 1 2 E3 ['B', 'G', 'R', 'Y'] [['B', 'G', 'O', 'R']] rfl ((calc_eq_fastP ['Y', 'G', 'O', 'B'] ['B', 'G', 'O', 'R'] (by decide) (by decide)).trans (by decide)) (by decide) pe3 rfl nx3 (by decide) (by decide) (by decide)).trans ?_
  refine Eq.trans (step_lift ['B', 'G', 'O', 'R'] (?_ : loopRun (honest ['Y', 'G', 'O', 'B']) 6 (some ['B', 'G', 'R', 'Y']) E3 [['B', 'G', 'O', 'R']] = (RunResult.solved ['Y', 'G', 'O', 'B'] 4, [['B', 'G', 'R', 'Y'], ['B', 'O', 'Y', 'R'], ['Y', 'G', 'O', 'B']]))) rfl
  refine (loopRun_step ['Y', 'G', 'O', 'B'] 6 5 ['B', 'G', 'R', 'Y'] E3 [['B', 'G', 'O', 'R']] 2 1 E19 ['B', 'O', 'Y', 'R'] [['B', 'G', 'O', 'R'], ['B', 'G', 'R', 'Y']] rfl ((calc_eq_fastP ['Y', 'G', 'O', 'B'] ['B', 'G', 'R', 'Y'] (by decide) (by decide)).trans (by decide)) (by decide) pe19 rfl nx19 (by decide) (by decide) (by decide)).trans ?_
  refine Eq.trans (step_lift ['B', 'G', 'R', 'Y'] (?_ : loopRun (honest ['Y', 'G', 'O', 'B']) 5 (some ['B', 'O', 'Y', 'R']) E19 [['B', 'G', 'O', 'R'], ['B', 'G', 'R', 'Y']] = (RunResult.solved ['Y', 'G', 'O', 'B'] 4, [['B', 'O', 'Y', 'R'], ['Y', 'G', 'O', 'B']]))) rfl
  refine (loopRun_step ['Y', 'G', 'O', 'B'] 5 4 ['B', 'O', 'Y', 'R'] E19 [['B', 'G', 'O', 'R'], ['B', 'G', 'R', 'Y']] 3 0 [['Y', 'G', 'O', 'B']] ['Y', 'G', 'O', 'B'] [['B', 'G', 'O', 'R'], ['B', 'G', 'R', 'Y'], ['B', 'O', 'Y', 'R']] rfl ((calc_eq_fastP ['Y', 'G', 'O', 'B'] ['B', 'O', 'Y', 'R'] (by decide) (by decide)).trans (by decide)) (by decide) pe254 rfl (findNextGuess_singleton ['Y', 'G', 'O', 'B'] [['B', 'G', 'O', 'R'], ['B', 'G', 'R', 'Y'], ['B', 'O', 'Y', 'R']]) (by decide) (by decide) (by decide)).trans ?_
  refine Eq.trans (step_lift ['B', 'O', 'Y', 'R'] (?_ : loopRun (honest ['Y', 'G', 'O', 'B']) 4 (some ['Y', 'G', 'O', 'B']) [['Y', 'G', 'O', 'B']] [['B', 'G', 'O', 'R'], ['B', 'G', 'R', 'Y'], ['B', 'O', 'Y', 'R']] = (RunResult.solved ['Y', 'G', 'O', 'B'] 4, [['Y', 'G', 'O', 'B']]))) rfl
  exact loopRun_last ['Y', 'G', 'O', 'B'] 4 3 [['Y', 'G', 'O', 'B']] [['B', 'G', 'O', 'R'], ['B', 'G', 'R', 'Y'], ['B', 'O', 'Y', 'R']] rfl rfl (by decide)

lemma rs256 : loopRun (honest ['Y', 'G', 'O', 'R']) 7 none S0 [] =
    (RunResult.solved ['Y', 'G', 'O', 'R'] 5, [['B', 'G', 'O', 'R'], ['B', 'G', 'O', 'Y'], ['B', 'G', 'Y', 'R'], ['B', 'Y', 'O', 'R'], ['Y', 'G', 'O', 'R']]) := by
  refine (loopRun_none' (honest ['Y', 'G', 'O', 'R']) 7 S0 []).trans ?_
  refine (loopRun_step ['Y', 'G', 'O', 'R'] 7 6 ['B', 'G', 'O', 'R'] S0 [] 0 3 E0 ['B', 'G', 'O', 'Y'] [['B', 'G', 'O', 'R']] rfl ((calc_eq_fastP ['Y', 'G', 'O', 'R'] ['B', 'G', 'O', 'R'] (by decide) (by decide)).trans (by decide)) (by decide) pe0 rfl nx0 (by decide) (by decide) (by decide)).trans ?_
  refine Eq.trans (step_lift ['B', 'G', 'O', 'R'] (?_ : loopRun (honest ['Y', 'G', 'O', 'R']) 6 (some ['B', 'G', 'O', 'Y']) E0 [['B', 'G', 'O', 'R']] = (RunResult.solved ['Y', 'G', 'O', 'R'] 5, [['B', 'G', 'O', 'Y'], ['B', 'G', 'Y', 'R'], ['B', 'Y', 'O', 'R'], ['Y', 'G', 'O', 'R']]))) rfl
  refine (loopRun_step ['Y', 'G', 'O', 'R'] 6 5 ['B', 'G', 'O', 'Y'] E0 [['B', 'G', 'O', 'R']] 1 2 E7 ['B', 'G', 'Y', 'R'] [['B', 'G', 'O', 'R'], ['B', 'G', 'O', 'Y']] rfl ((calc_eq_fastP ['Y', 'G', 'O', 'R'] ['B', 'G', 'O', 'Y'] (by decide) (by decide)).trans (by decide)) (by decide) pe7 rfl nx7 (by decide) (by decide) (by decide)).trans ?_
  refine Eq.trans (step_lift ['B', 'G', 'O', 'Y'] (?_ : loopRun (honest ['Y', 'G', 'O', 'R']) 5 (some ['B', 'G', 'Y', 'R']) E7 [['B', 'G', 'O', 'R'], ['B', 'G', 'O', 'Y']] = (RunResult.solved ['Y', 'G', 'O', 'R'] 5, [['B', 'G', 'Y', 'R'], ['B', 'Y', 'O', 'R'], ['Y', 'G', 'O', 'R']]))) rfl
  refine (loopRun_step ['Y', 'G', 'O', 'R'] 5 4 ['B', 'G', 'Y', 'R'] E7 [['B', 'G', 'O', 'R'], ['B', 'G', 'O', 'Y']] 1 2 E41 ['B', 'Y', 'O', 'R'] [['B', 'G', 'O', 'R'], ['B', 'G', 'O', 'Y'], ['B', 'G', 'Y', 'R']] rfl ((calc_eq_fastP ['Y', 'G', 'O', 'R'] ['B', 'G', 'Y', 'R'] (by decide) (by decide)).trans (by decide)) (by decide) pe41 rfl nx41 (by decide) (by decide) (by decide)).trans ?_
  refine Eq.trans (step_lift ['B', 'G', 'Y', 'R'] (?_ : loopRun (honest ['Y', 'G', 'O', 'R']) 4 (some ['B', 'Y', 'O', 'R']) E41 [['B', 'G', 'O', 'R'], ['B', 'G', 'O', 'Y'], ['B', 'G', 'Y', 'R']] = (RunResult.solved ['Y', 'G', 'O', 'R'] 5, [['B', 'Y', 'O', 'R'], ['Y', 'G', 'O', 'R']]))) rfl
  refine (loopRun_step ['Y', 'G', 'O', 'R'] 4 3 ['B', 'Y', 'O', 'R'] E41 [['B', 'G', 'O', 'R'], ['B', 'G', 'O', 'Y'], ['B', 'G', 'Y', 'R']] 1 2 [['Y', 'G', 'O', 'R']] ['Y', 'G', 'O', 'R'] [['B', 'G', 'O', 'R'], ['B', 'G', 'O', 'Y'], ['B', 'G', 'Y', 'R'], ['B', 'Y', 'O', 'R']] rfl ((calc_eq_fastP ['Y', 'G', 'O', 'R'] ['B', 'Y', 'O', 'R'] (by decide) (by decide)).trans (by decide)) (by decide) pe255 rfl (findNextGuess_singleton ['Y', 'G', 'O', 'R'] [['B', 'G', 'O', 'R'], ['B', 'G', 'O', 'Y'], ['B', 'G', 'Y', 'R'], ['B', 'Y', 'O', 'R']]) (by decide) (by decide) (by decide)).trans ?_
  refine Eq.trans (step_lift ['B', 'Y', 'O', 'R'] (?_ : loopRun (honest ['Y', 'G', 'O', 'R']) 3 (some ['Y', 'G', 'O', 'R']) [['Y', 'G', 'O', 'R']] [['B', 'G', 'O', 'R'], ['B', 'G', 'O', 'Y'], ['B', 'G', 'Y', 'R'], ['B', 'Y', 'O', 'R']] = (RunResult.solved ['Y', 'G', 'O', 'R'] 5, [['Y', 'G', 'O', 'R']]))) rfl
  exact loopRun_last ['Y', 'G', 'O', 'R'] 3 2 [['Y', 'G', 'O', 'R']] [['B', 'G', 'O', 'R'], ['B', 'G', 'O', 'Y'], ['B', 'G', 'Y', 'R'], ['B', 'Y', 'O', 'R']] rfl rfl (by decide)

lemma rs257 : loopRun (honest ['Y', 'G', 'O', 'P']) 7 none S0 [] =
    (RunResult.solved ['Y', 'G', 'O', 'P'] 4, [['B', 'G', 'O', 'R'], ['B', 'G', 'Y', 'P'], ['B', 'Y', 'O', 'P'], ['Y', 'G', 'O', 'P']]) := by
  refine (loopRun_none' (honest ['Y', 'G', 'O', 'P']) 7 S0 []).trans ?_
  refine (loopRun_step ['Y', 'G', 'O', 'P'] 7 6 ['B', 'G', 'O', 'R'] S0 [] 0 2 E8 ['B', 'G', 'Y', 'P'] [['B', 'G', 'O', 'R']] rfl ((calc_eq_fastP ['Y', 'G', 'O', 'P'] ['B', 'G', 'O', 'R'] (by decide) (by decide)).trans (by decide)) (by decide) pe8 rfl nx8 (by decide) (by decide) (by decide)).trans ?_
  refine Eq.trans (step_lift ['B', 'G', 'O', 'R'] (?_ : loopRun (honest ['Y', 'G', 'O', 'P']) 6 (some ['B', 'G', 'Y', 'P']) E8 [['B', 'G', 'O', 'R']] = (RunResult.solved ['Y', 'G', 'O', 'P'] 4, [['B', 'G', 'Y', 'P'], ['B', 'Y', 'O', 'P'], ['Y', 'G', 'O', 'P']]))) rfl
  refine (loopRun_step ['Y', 'G', 'O', 'P'] 6 5 ['B', 'G', 'Y', 'P'] E8 [['B', 'G', 'O', 'R']] 1 2 E42 ['B', 'Y', 'O', 'P'] [['B', 'G', 'O', 'R'], ['B', 'G', 'Y', 'P']] rfl ((calc_eq_fastP ['Y', 'G', 'O', 'P'] ['B', 'G', 'Y', 'P'] (by decide) (by decide)).trans (by decide)) (by decide) pe42 rfl nx42 (by decide) (by decide) (by decide)).trans ?_
  refine Eq.trans (step_lift ['B', 'G', 'Y', 'P'] (?_ : loopRun (honest ['Y', 'G', 'O', 'P']) 5 (some ['B', 'Y', 'O', 'P']) E42 [['B', 'G', 'O', 'R'], ['B', 'G', 'Y', 'P']] = (RunResult.solved ['Y', 'G', 'O', 'P'] 4, [['B', 'Y', 'O', 'P'], ['Y', 'G', 'O', 'P']]))) rfl
  refine (loopRun_step ['Y', 'G', 'O', 'P'] 5 4 ['B', 'Y', 'O', 'P'] E42 [['B', 'G', 'O', 'R'], ['B', 'G', 'Y', 'P']] 1 2 [['Y', 'G', 'O', 'P']] ['Y', 'G', 'O', 'P'] [['B', 'G', 'O', 'R'], ['B', 'G', 'Y', 'P'], ['B', 'Y', 'O', 'P']] rfl ((calc_eq_fastP ['Y', 'G', 'O', 'P'] ['B', 'Y', 'O', 'P'] (by decide) (by decide)).trans (by decide)) (by decide) pe256 rfl (findNextGuess_singleton ['Y', 'G', 'O', 'P'] [['B', 'G', 'O', 'R'], ['B', 'G', 'Y', 'P'], ['B', 'Y', 'O', 'P']]) (by decide) (by decide) (by decide)).trans ?_
  refine Eq.trans (step_lift ['B', 'Y', 'O', 'P'] (?_ : loopRun (honest ['Y', 'G', 'O', 'P']) 4 (some ['Y', 'G', 'O', 'P']) [['Y', 'G', 'O', 'P']] [['B', 'G', 'O', 'R'], ['B', 'G', 'Y', 'P'], ['B', 'Y', 'O', 'P']] = (RunResult.solved ['Y', 'G', 'O', 'P'] 4, [['Y', 'G', 'O', 'P']]))) rfl
  exact loopRun_last ['Y', 'G', 'O', 'P'] 4 3 [['Y', 'G', 'O', 'P']] [['B', 'G', 'O', 'R'], ['B', 'G', 'Y', 'P'], ['B', 'Y', 'O', 'P']] rfl rfl (by decide)

lemma rs258 : loopRun (honest ['Y', 'G', 'R', 'B']) 7 none S0 [] =
    (RunResult.solved ['Y', 'G', 'R', 'B'] 5, [['B', 'G', 'O', 'R'], ['B', 'O', 'R', 'Y'], ['G', 'R', 'O', 'Y'], ['B', 'Y', 'G', 'O'], ['Y', 'G', 'R', 'B']]) := by
  refine (loopRun_none' (honest ['Y', 'G', 'R', 'B']) 7 S0 []).trans ?_
  refine (loopRun_step ['Y', 'G', 'R', 'B'] 7 6 ['B', 'G', 'O', 'R'] S0 [] 2 1 E13 ['B', 'O', 'R', 'Y'] [['B', 'G', 'O', 'R']] rfl ((calc_eq_fastP ['Y', 'G', 'R', 'B'] ['B', 'G', 'O', 'R'] (by decide) (by decide)).trans (by decide)) (by decide) pe13 rfl nx13 (by decide) (by decide) (by decide)).trans ?_
  refine Eq.trans (step_lift ['B', 'G', 'O', 'R'] (?_ : loopRun (honest ['Y', 'G', 'R', 'B']) 6 (some ['B', 'O', 'R', 'Y']) E13 [['B', 'G', 'O', 'R']] = (RunResult.solved ['Y', 'G', 'R', 'B'] 5, [['B', 'O', 'R', 'Y'], ['G', 'R', 'O', 'Y'], ['B', 'Y', 'G', 'O'], ['Y', 'G', 'R', 'B']]))) rfl
  refine (loopRun_step ['Y', 'G', 'R', 'B'] 6 5 ['B', 'O', 'R', 'Y'] E13 [['B', 'G', 'O', 'R']] 2 1 E29 ['G', 'R', 'O', 'Y'] [['B', 'G', 'O', 'R'], ['B', 'O', 'R', 'Y']] rfl ((calc_eq_fastP ['Y', 'G', 'R', 'B'] ['B', 'O', 'R', 'Y'] (by decide) (by decide)).trans (by decide)) (by decide) pe29 rfl nx29 (by decide) (by decide) (by decide)).trans ?_
  refine Eq.trans (step_lift ['B', 'O', 'R', 'Y'] (?_ : loopRun (honest ['Y', 'G', 'R', 'B']) 5 (some ['G', 'R', 'O', 'Y']) E29 [['B', 'G', 'O', 'R'], ['B', 'O', 'R', 'Y']] = (RunResult.solved ['Y', 'G', 'R', 'B'] 5, [['G', 'R', 'O', 'Y'], ['B', 'Y', 'G', 'O'], ['Y', 'G', 'R', 'B']]))) rfl
  refine (loopRun_step ['Y', 'G', 'R', 'B'] 5 4 ['G', 'R', 'O', 'Y'] E29 [['B', 'G', 'O', 'R'], ['B', 'O', 'R', 'Y']] 3 0 E37 ['B', 'Y', 'G', 'O'] [['B', 'G', 'O', 'R'], ['B', 'O', 'R', 'Y'], ['G', 'R', 'O', 'Y']] rfl ((calc_eq_fastP ['Y', 'G', 'R', 'B'] ['G', 'R', 'O', 'Y'] (by decide) (by decide)).trans (by decide)) (by decide) pe37 rfl nx37 (by decide) (by decide) (by decide)).trans ?_
  refine Eq.trans (step_lift ['G', 'R', 'O', 'Y'] (?_ : loopRun (honest ['Y', 'G', 'R', 'B']) 4 (some ['B', 'Y', 'G', 'O']) E37 [['B', 'G', 'O', 'R'], ['B', 'O', 'R', 'Y'], ['G', 'R', 'O', 'Y']] = (RunResult.solved ['Y', 'G', 'R', 'B'] 5, [['B', 'Y', 'G', 'O'], ['Y', 'G', 'R', 'B']]))) rfl
  refine (loopRun_step ['Y', 'G', 'R', 'B'] 4 3 ['B', 'Y', 'G', 'O'] E37 [['B', 'G', 'O', 'R'], ['B', 'O', 'R', 'Y'], ['G', 'R', 'O', 'Y']] 3 0 [['Y', 'G', 'R', 'B']] ['Y', 'G', 'R', 'B'] [['B', 'G', 'O', 'R'], ['B', 'O', 'R', 'Y'], ['G', 'R', 'O', 'Y'], ['B', 'Y', 'G', 'O']] rfl ((calc_eq_fastP ['Y', 'G', 'R', 'B'] ['B', 'Y', 'G', 'O'] (by decide) (by decide)).trans (by decide)) (by decide) pe257 rfl (findNextGuess_singleton ['Y', 'G', 'R', 'B'] [['B', 'G', 'O', 'R'], ['B', 'O', 'R', 'Y'], ['G', 'R', 'O', 'Y'], ['B', 'Y', 'G', 'O']]) (by decide) (by decide) (by decide)).trans ?_
  refine Eq.trans (step_lift ['B', 'Y', 'G', 'O'] (?_ : loopRun (honest ['Y', 'G', 'R', 'B']) 3 (some ['Y', 'G', 'R', 'B']) [['Y', 'G', 'R', 'B']] [['B', 'G', 'O', 'R'], ['B', 'O', 'R', 'Y'], ['G', 'R', 'O', 'Y'], ['B', 'Y', 'G', 'O']] = (RunResult.solved ['Y', 'G', 'R', 'B'] 5, [['Y', 'G', 'R', 'B']]))) rfl
  exact loopRun_last ['Y', 'G', 'R', 'B'] 3 2 [['Y', 'G', 'R', 'B']] [['B', 'G', 'O', 'R'], ['B', 'O', 'R', 'Y'], ['G', 'R', 'O', 'Y'], ['B', 'Y', 'G', 'O']] rfl rfl (by decide)

lemma rs259 : loopRun (honest ['Y', 'G', 'R', 'O']) 7 none S0 [] =
    (RunResult.solved ['Y', 'G', 'R', 'O'] 4, [['B', 'G', 'O', 'R'], ['B', 'O', 'R', 'Y'], ['G', 'R', 'O', 'Y'], ['Y', 'G', 'R', 'O']]) := by
  refine (loopRun_none' (honest ['Y', 'G', 'R', 'O']) 7 S0 []).trans ?_
  refine (loopRun_step ['Y', 'G', 'R', 'O'] 7 6 ['B', 'G', 'O', 'R'] S0 [] 2 1 E13 ['B', 'O', 'R', 'Y'] [['B', 'G', 'O', 'R']] rfl ((calc_eq_fastP ['Y', 'G', 'R', 'O'] ['B', 'G', 'O', 'R'] (by decide) (by decide)).trans (by decide)) (by decide) pe13 rfl nx13 (by decide) (by decide) (by decide)).trans ?_
  refine Eq.trans (step_lift ['B', 'G', 'O', 'R'] (?_ : loopRun (honest ['Y', 'G', 'R', 'O']) 6 (some ['B', 'O', 'R', 'Y']) E13 [['B', 'G', 'O', 'R']] = (RunResult.solved ['Y', 'G', 'R', 'O'] 4, [['B', 'O', 'R', 'Y'], ['G', 'R', 'O', 'Y'], ['Y', 'G', 'R', 'O']]))) rfl
  refine (loopRun_step ['Y', 'G', 'R', 'O'] 6 5 ['B', 'O', 'R', 'Y'] E13 [['B', 'G', 'O', 'R']] 2 1 E29 ['G', 'R', 'O', 'Y'] [['B', 'G', 'O', 'R'], ['B', 'O', 'R', 'Y']] rfl ((calc_eq_fastP ['Y', 'G', 'R', 'O'] ['B', 'O', 'R', 'Y'] (by decide) (by decide)).trans (by decide)) (by decide) pe29 rfl nx29 (by decide) (by decide) (by decide)).trans ?_
  refine Eq.trans (step_lift ['B', 'O', 'R', 'Y'] (?_ : loopRun (honest ['Y', 'G', 'R', 'O']) 5 (some ['G', 'R', 'O', 'Y']) E29 [['B', 'G', 'O', 'R'], ['B', 'O', 'R', 'Y']] = (RunResult.solved ['Y', 'G', 'R', 'O'] 4, [['G', 'R', 'O', 'Y'], ['Y', 'G', 'R', 'O']]))) rfl
  refine (loopRun_step ['Y', 'G', 'R', 'O'] 5 4 ['G', 'R', 'O', 'Y'] E29 [['B', 'G', 'O', 'R'], ['B', 'O', 'R', 'Y']] 4 0 E258 ['Y', 'G', 'R', 'O'] [['B', 'G', 'O', 'R'], ['B', 'O', 'R', 'Y'], ['G', 'R', 'O', 'Y']] rfl ((calc_eq_fastP ['Y', 'G', 'R', 'O'] ['G', 'R', 'O', 'Y'] (by decide) (by decide)).trans (by decide)) (by decide) pe258 rfl nx258 (by decide) (by decide) (by decide)).trans ?_
  refine Eq.trans (step_lift ['G', 'R', 'O', 'Y'] (?_ : loopRun (honest ['Y', 'G', 'R', 'O']) 4 (some ['Y', 'G', 'R', 'O']) E258 [['B', 'G', 'O', 'R'], ['B', 'O', 'R', 'Y'], ['G', 'R', 'O', 'Y']] = (RunResult.solved ['Y', 'G', 'R', 'O'] 4, [['Y', 'G', 'R', 'O']]))) rfl
  exact loopRun_last ['Y', 'G', 'R', 'O'] 4 3 E258 [['B', 'G', 'O', 'R'], ['B', 'O', 'R', 'Y'], ['G', 'R', 'O', 'Y']] rfl rfl (by decide)

lemma rs260 : loopRun (honest ['Y', 'G', 'R', 'P']) 7 none S0 [] =
    (RunResult.solved ['Y', 'G', 'R', 'P'] 4, [['B', 'G', 'O', 'R'], ['B', 'O', 'Y', 'P'], ['G', 'P', 'Y', 'R'], ['Y', 'G', 'R', 'P']]) := by
  refine (loopRun_none' (honest ['Y', 'G', 'R', 'P']) 7 S0 []).trans ?_
  refine (loopRun_step ['Y', 'G', 'R', 'P'] 7 6 ['B', 'G', 'O', 'R'] S0 [] 1 1 E20 ['B', 'O', 'Y', 'P'] [['B', 'G', 'O', 'R']] rfl ((calc_eq_fastP ['Y', 'G', 'R', 'P'] ['B', 'G', 'O', 'R'] (by decide) (by decide)).trans (by decide)) (by decide) pe20 rfl nx20 (by decide) (by decide) (by decide)).trans ?_
  refine Eq.trans (step_lift ['B', 'G', 'O', 'R'] (?_ : loopRun (honest ['Y', 'G', 'R', 'P']) 6 (some ['B', 'O', 'Y', 'P']) E20 [['B', 'G', 'O', 'R']] = (RunResult.solved ['Y', 'G', 'R', 'P'] 4, [['B', 'O', 'Y', 'P'], ['G', 'P', 'Y', 'R'], ['Y', 'G', 'R', 'P']]))) rfl
  refine (loopRun_step ['Y', 'G', 'R', 'P'] 6 5 ['B', 'O', 'Y', 'P'] E20 [['B', 'G', 'O', 'R']] 1 1 E120 ['G', 'P', 'Y', 'R'] [['B', 'G', 'O', 'R'], ['B', 'O', 'Y', 'P']] rfl ((calc_eq_fastP ['Y', 'G', 'R', 'P'] ['B', 'O', 'Y', 'P'] (by decide) (by decide)).trans (by decide)) (by decide) pe120 rfl nx120 (by decide) (by decide) (by decide)).trans ?_
  refine Eq.trans (step_lift ['B', 'O', 'Y', 'P'] (?_ : loopRun (honest ['Y', 'G', 'R', 'P']) 5 (some ['G', 'P', 'Y', 'R']) E120 [['B', 'G', 'O', 'R'], ['B', 'O', 'Y', 'P']] = (RunResult.solved ['Y', 'G', 'R', 'P'] 4, [['G', 'P', 'Y', 'R'], ['Y', 'G', 'R', 'P']]))) rfl
  refine (loopRun_step ['Y', 'G', 'R', 'P'] 5 4 ['G', 'P', 'Y', 'R'] E120 [['B', 'G', 'O', 'R'], ['B', 'O', 'Y', 'P']] 4 0 [['Y', 'G', 'R', 'P']] ['Y', 'G', 'R', 'P'] [['B', 'G', 'O', 'R'], ['B', 'O', 'Y', 'P'], ['G', 'P', 'Y', 'R']] rfl ((calc_eq_fastP ['Y', 'G', 'R', 'P'] ['G', 'P', 'Y', 'R'] (by decide) (by decide)).trans (by decide)) (by decide) pe259 rfl (findNextGuess_singleton ['Y', 'G', 'R', 'P'] [['B', 'G', 'O', 'R'], ['B', 'O', 'Y', 'P'], ['G', 'P', 'Y', 'R']]) (by decide) (by decide) (by decide)).trans ?_
  refine Eq.trans (step_lift ['G', 'P', 'Y', 'R'] (?_ : loopRun (honest ['Y', 'G', 'R', 'P']) 4 (some ['Y', 'G', 'R', 'P']) [['Y', 'G', 'R', 'P']] [['B', 'G', 'O', 'R'], ['B', 'O', 'Y', 'P'], ['G', 'P', 'Y', 'R']] = (RunResult.solved ['Y', 'G', 'R', 'P'] 4, [['Y', 'G', 'R', 'P']]))) rfl
  exact loopRun_last ['Y', 'G', 'R', 'P'] 4 3 [['Y', 'G', 'R', 'P']] [['B', 'G', 'O', 'R'], ['B', 'O', 'Y', 'P'], ['G', 'P', 'Y', 'R']] rfl rfl (by decide)

lemma rs261 : loopRun (honest ['Y', 'G', 'P', 'B']) 7 none S0 [] =
    (RunResult.solved ['Y', 'G', 'P', 'B'] 5, [['B', 'G', 'O', 'R'], ['B', 'O', 'Y', 'P'], ['G', 'P', 'O', 'Y'], ['O', 'Y', 'P', 'R'], ['Y', 'G', 'P', 'B']]) := by
  refine (loopRun_none' (honest ['Y', 'G', 'P', 'B']) 7 S0 []).trans ?_
  refine (loopRun_step ['Y', 'G', 'P', 'B'] 7 6 ['B', 'G', 'O', 'R'] S0 [] 1 1 E20 ['B', 'O', 'Y', 'P'] [['B', 'G', 'O', 'R']] rfl ((calc_eq_fastP ['Y', 'G', 'P', 'B'] ['B', 'G', 'O', 'R'] (by decide) (by decide)).trans (by decide)) (by decide) pe20 rfl nx20 (by decide) (by decide) (by decide)).trans ?_
  refine Eq.trans (step_lift ['B', 'G', 'O', 'R'] (?_ : loopRun (honest ['Y', 'G', 'P', 'B']) 6 (some ['B', 'O', 'Y', 'P']) E20 [['B', 'G', 'O', 'R']] = (RunResult.solved ['Y', 'G', 'P', 'B'] 5, [['B', 'O', 'Y', 'P'], ['G', 'P', 'O', 'Y'], ['O', 'Y', 'P', 'R'], ['Y', 'G', 'P', 'B']]))) rfl
  refine (loopRun_step ['Y', 'G', 'P', 'B'] 6 5 ['B', 'O', 'Y', 'P'] E20 [['B', 'G', 'O', 'R']] 3 0 E114 ['G', 'P', 'O', 'Y'] [['B', 'G', 'O', 'R'], ['B', 'O', 'Y', 'P']] rfl ((calc_eq_fastP ['Y', 'G', 'P', 'B'] ['B', 'O', 'Y', 'P'] (by decide) (by decide)).trans (by decide)) (by decide) pe114 rfl nx114 (by decide) (by decide) (by decide)).trans ?_
  refine Eq.trans (step_lift ['B', 'O', 'Y', 'P'] (?_ : loopRun (honest ['Y', 'G', 'P', 'B']) 5 (some ['G', 'P', 'O', 'Y']) E114 [['B', 'G', 'O', 'R'], ['B', 'O', 'Y', 'P']] = (RunResult.solved ['Y', 'G', 'P', 'B'] 5, [['G', 'P', 'O', 'Y'], ['O', 'Y', 'P', 'R'], ['Y', 'G', 'P', 'B']]))) rfl
  refine (loopRun_step ['Y', 'G', 'P', 'B'] 5 4 ['G', 'P', 'O', 'Y'] E114 [['B', 'G', 'O', 'R'], ['B', 'O', 'Y', 'P']] 3 0 E170 ['O', 'Y', 'P', 'R'] [['B', 'G', 'O', 'R'], ['B', 'O', 'Y', 'P'], ['G', 'P', 'O', 'Y']] rfl ((calc_eq_fastP ['Y', 'G', 'P', 'B'] ['G', 'P', 'O', 'Y'] (by decide) (by decide)).trans (by decide)) (by decide) pe170 rfl nx170 (by decide) (by decide) (by decide)).trans ?_
  refine Eq.trans (step_lift ['G', 'P', 'O', 'Y'] (?_ : loopRun (honest ['Y', 'G', 'P', 'B']) 4 (some ['O', 'Y', 'P', 'R']) E170 [['B', 'G', 'O', 'R'], ['B', 'O', 'Y', 'P'], ['G', 'P', 'O', 'Y']] = (RunResult.solved ['Y', 'G', 'P', 'B'] 5, [['O', 'Y', 'P', 'R'], ['Y', 'G', 'P', 'B']]))) rfl
  refine (loopRun_step ['Y', 'G', 'P', 'B'] 4 3 ['O', 'Y', 'P', 'R'] E170 [['B', 'G', 'O', 'R'], ['B', 'O', 'Y', 'P'], ['G', 'P', 'O', 'Y']] 1 1 [['Y', 'G', 'P', 'B']] ['Y', 'G', 'P', 'B'] [['B', 'G', 'O', 'R'], ['B', 'O', 'Y', 'P'], ['G', 'P', 'O', 'Y'], ['O', 'Y', 'P', 'R']] rfl ((calc_eq_fastP ['Y', 'G', 'P', 'B'] ['O', 'Y', 'P', 'R'] (by decide) (by decide)).trans (by decide)) (by decide) pe260 rfl (findNextGuess_singleton ['Y', 'G', 'P', 'B'] [['B', 'G', 'O', 'R'], ['B', 'O', 'Y', 'P'], ['G', 'P', 'O', 'Y'], ['O', 'Y', 'P', 'R']]) (by decide) (by decide) (by decide)).trans ?_
  refine Eq.trans (step_lift ['O', 'Y', 'P', 'R'] (?_ : loopRun (honest ['Y', 'G', 'P', 'B']) 3 (some ['Y', 'G', 'P', 'B']) [['Y', 'G', 'P', 'B']] [['B', 'G', 'O', 'R'], ['B', 'O', 'Y', 'P'], ['G', 'P', 'O', 'Y'], ['O', 'Y', 'P', 'R']] = (RunResult.solved ['Y', 'G', 'P', 'B'] 5, [['Y', 'G', 'P', 'B']]))) rfl
  exact loopRun_last ['Y', 'G', 'P', 'B'] 3 2 [['Y', 'G', 'P', 'B']] [['B', 'G', 'O', 'R'], ['B', 'O', 'Y', 'P'], ['G', 'P', 'O', 'Y'], ['O', 'Y', 'P', 'R']] rfl rfl (by decide)

lemma rs262 : loopRun (honest ['Y', 'G', 'P', 'O']) 7 none S0 [] =
    (RunResult.solved ['Y', 'G', 'P', 'O'] 4, [['B', 'G', 'O', 'R'], ['B', 'O', 'Y', 'P'], ['G', 'P', 'O', 'Y'], ['Y', 'G', 'P', 'O']]) := by
  refine (loopRun_none' (honest ['Y', 'G', 'P', 'O']) 7 S0 []).trans ?_
  refine (loopRun_step ['Y', 'G', 'P', 'O'] 7 6 ['B', 'G', 'O', 'R'] S0 [] 1 1 E20 ['B', 'O', 'Y', 'P'] [['B', 'G', 'O', 'R']] rfl ((calc_eq_fastP ['Y', 'G', 'P', 'O'] ['B', 'G', 'O', 'R'] (by decide) (by decide)).trans (by decide)) (by decide) pe20 rfl nx20 (by decide) (by decide) (by decide)).trans ?_
  refine Eq.trans (step_lift ['B', 'G', 'O', 'R'] (?_ : loopRun (honest ['Y', 'G', 'P', 'O']) 6 (some ['B', 'O', 'Y', 'P']) E20 [['B', 'G', 'O', 'R']] = (RunResult.solved ['Y', 'G', 'P', 'O'] 4, [['B', 'O', 'Y', 'P'], ['G', 'P', 'O', 'Y'], ['Y', 'G', 'P', 'O']]))) rfl
  refine (loopRun_step ['Y', 'G', 'P', 'O'] 6 5 ['B', 'O', 'Y', 'P'] E20 [['B', 'G', 'O', 'R']] 3 0 E114 ['G', 'P', 'O', 'Y'] [['B', 'G', 'O', 'R'], ['B', 'O', 'Y', 'P']] rfl ((calc_eq_fastP ['Y', 'G', 'P', 'O'] ['B', 'O', 'Y', 'P'] (by decide) (by decide)).trans (by decide)) (by decide) pe114 rfl nx114 (by decide) (by decide) (by decide)).trans ?_
  refine Eq.trans (step_lift ['B', 'O', 'Y', 'P'] (?_ : loopRun (honest ['Y', 'G', 'P', 'O']) 5 (some ['G', 'P', 'O', 'Y']) E114 [['B', 'G', 'O', 'R'], ['B', 'O', 'Y', 'P']] = (RunResult.solved ['Y', 'G', 'P', 'O'] 4, [['G', 'P', 'O', 'Y'], ['Y', 'G', 'P', 'O']]))) rfl
  refine (loopRun_step ['Y', 'G', 'P', 'O'] 5 4 ['G', 'P', 'O', 'Y'] E114 [['B', 'G', 'O', 'R'], ['B', 'O', 'Y', 'P']] 4 0 [['Y', 'G', 'P', 'O']] ['Y', 'G', 'P', 'O'] [['B', 'G', 'O', 'R'], ['B', 'O', 'Y', 'P'], ['G', 'P', 'O', 'Y']] rfl ((calc_eq_fastP ['Y', 'G', 'P', 'O'] ['G', 'P', 'O', 'Y'] (by decide) (by decide)).trans (by decide)) (by decide) pe261 rfl (findNextGuess_singleton ['Y', 'G', 'P', 'O'] [['B', 'G', 'O', 'R'], ['B', 'O', 'Y', 'P'], ['G', 'P', 'O', 'Y']]) (by decide) (by decide) (by decide)).trans ?_
  refine Eq.trans (step_lift ['G', 'P', 'O', 'Y'] (?_ : loopRun (honest ['Y', 'G', 'P', 'O']) 4 (some ['Y', 'G', 'P', 'O']) [['Y', 'G', 'P', 'O']] [['B', 'G', 'O', 'R'], ['B', 'O', 'Y', 'P'], ['G', 'P', 'O', 'Y']] = (RunResult.solved ['Y', 'G', 'P', 'O'] 4, [['Y', 'G', 'P', 'O']]))) rfl
  exact loopRun_last ['Y', 'G', 'P', 'O'] 4 3 [['Y', 'G', 'P', 'O']] [['B', 'G', 'O', 'R'], ['B', 'O', 'Y', 'P'], ['G', 'P', 'O', 'Y']] rfl rfl (by decide)

lemma rs263 : loopRun (honest ['Y', 'G', 'P', 'R']) 7 none S0 [] =
    (RunResult.solved ['Y', 'G', 'P', 'R'] 4, [['B', 'G', 'O', 'R'], ['B', 'G', 'Y', 'P'], ['B', 'Y', 'P', 'R'], ['Y', 'G', 'P', 'R']]) := by
  refine (loopRun_none' (honest ['Y', 'G', 'P', 'R']) 7 S0 []).trans ?_
  refine (loopRun_step ['Y', 'G', 'P', 'R'] 7 6 ['B', 'G', 'O', 'R'] S0 [] 0 2 E8 ['B', 'G', 'Y', 'P'] [['B', 'G', 'O', 'R']] rfl ((calc_eq_fastP ['Y', 'G', 'P', 'R'] ['B', 'G', 'O', 'R'] (by decide) (by decide)).trans (by decide)) (by decide) pe8 rfl nx8 (by decide) (by decide) (by decide)).trans ?_
  refine Eq.trans (step_lift ['B', 'G', 'O', 'R'] (?_ : loopRun (honest ['Y', 'G', 'P', 'R']) 6 (some ['B', 'G', 'Y', 'P']) E8 [['B', 'G', 'O', 'R']] = (RunResult.solved ['Y', 'G', 'P', 'R'] 4, [['B', 'G', 'Y', 'P'], ['B', 'Y', 'P', 'R'], ['Y', 'G', 'P', 'R']]))) rfl
  refine (loopRun_step ['Y', 'G', 'P', 'R'] 6 5 ['B', 'G', 'Y', 'P'] E8 [['B', 'G', 'O', 'R']] 2 1 E47 ['B', 'Y', 'P', 'R'] [['B', 'G', 'O', 'R'], ['B', 'G', 'Y', 'P']] rfl ((calc_eq_fastP ['Y', 'G', 'P', 'R'] ['B', 'G', 'Y', 'P'] (by decide) (by decide)).trans (by decide)) (by decide) pe47 rfl nx47 (by decide) (by decide) (by decide)).trans ?_
  refine Eq.trans (step_lift ['B', 'G', 'Y', 'P'] (?_ : loopRun (honest ['Y', 'G', 'P', 'R']) 5 (some ['B', 'Y', 'P', 'R']) E47 [['B', 'G', 'O', 'R'], ['B', 'G', 'Y', 'P']] = (RunResult.solved ['Y', 'G', 'P', 'R'] 4, [['B', 'Y', 'P', 'R'], ['Y', 'G', 'P', 'R']]))) rfl
  refine (loopRun_step ['Y', 'G', 'P', 'R'] 5 4 ['B', 'Y', 'P', 'R'] E47 [['B', 'G', 'O', 'R'], ['B', 'G', 'Y', 'P']] 1 2 [['Y', 'G', 'P', 'R']] ['Y', 'G', 'P', 'R'] [['B', 'G', 'O', 'R'], ['B', 'G', 'Y', 'P'], ['B', 'Y', 'P', 'R']] rfl ((calc_eq_fastP ['Y', 'G', 'P', 'R'] ['B', 'Y', 'P', 'R'] (by decide) (by decide)).trans (by decide)) (by decide) pe262 rfl (findNextGuess_singleton ['Y', 'G', 'P', 'R'] [['B', 'G', 'O', 'R'], ['B', 'G', 'Y', 'P'], ['B', 'Y', 'P', 'R']]) (by decide) (by decide) (by decide)).trans ?_
  refine Eq.trans (step_lift ['B', 'Y', 'P', 'R'] (?_ : loopRun (honest ['Y', 'G', 'P', 'R']) 4 (some ['Y', 'G', 'P', 'R']) [['Y', 'G', 'P', 'R']] [['B', 'G', 'O', 'R'], ['B', 'G', 'Y', 'P'], ['B', 'Y', 'P', 'R']] = (RunResult.solved ['Y', 'G', 'P', 'R'] 4, [['Y', 'G', 'P', 'R']]))) rfl
  exact loopRun_last ['Y', 'G', 'P', 'R'] 4 3 [['Y', 'G', 'P', 'R']] [['B', 'G', 'O', 'R'], ['B', 'G', 'Y', 'P'], ['B', 'Y', 'P', 'R']] rfl rfl (by decide)

lemma rs264 : loopRun (honest ['Y', 'O', 'B', 'G']) 7 none S0 [] =
    (RunResult.solved ['Y', 'O', 'B', 'G'] 4, [['B', 'G', 'O', 'R'], ['G', 'O', 'R', 'Y'], ['G', 'B', 'Y', 'O'], ['Y', 'O', 'B', 'G']]) := by
  refine (loopRun_none' (honest ['Y', 'O', 'B', 'G']) 7 S0 []).trans ?_
  refine (loopRun_step ['Y', 'O', 'B', 'G'] 7 6 ['B', 'G', 'O', 'R'] S0 [] 3 0 E65 ['G', 'O', 'R', 'Y'] [['B', 'G', 'O', 'R']] rfl ((calc_eq_fastP ['Y', 'O', 'B', 'G'] ['B', 'G', 'O', 'R'] (by decide) (by decide)).trans (by decide)) (by decide) pe65 rfl nx65 (by decide) (by decide) (by decide)).trans ?_
  refine Eq.trans (step_lift ['B', 'G', 'O', 'R'] (?_ : loopRun (honest ['Y', 'O', 'B', 'G']) 6 (some ['G', 'O', 'R', 'Y']) E65 [['B', 'G', 'O', 'R']] = (RunResult.solved ['Y', 'O', 'B', 'G'] 4, [['G', 'O', 'R', 'Y'], ['G', 'B', 'Y', 'O'], ['Y', 'O', 'B', 'G']]))) rfl
  refine (loopRun_step ['Y', 'O', 'B', 'G'] 6 5 ['G', 'O', 'R', 'Y'] E65 [['B', 'G', 'O', 'R']] 2 1 E68 ['G', 'B', 'Y', 'O'] [['B', 'G', 'O', 'R'], ['G', 'O', 'R', 'Y']] rfl ((calc_eq_fastP ['Y', 'O', 'B', 'G'] ['G', 'O', 'R', 'Y'] (by decide) (by decide)).trans (by decide)) (by decide) pe68 rfl nx68 (by decide) (by decide) (by decide)).trans ?_
  refine Eq.trans (step_lift ['G', 'O', 'R', 'Y'] (?_ : loopRun (honest ['Y', 'O', 'B', 'G']) 5 (some ['G', 'B', 'Y', 'O']) E68 [['B', 'G', 'O', 'R'], ['G', 'O', 'R', 'Y']] = (RunResult.solved ['Y', 'O', 'B', 'G'] 4, [['G', 'B', 'Y', 'O'], ['Y', 'O', 'B', 'G']]))) rfl
  refine (loopRun_step ['Y', 'O', 'B', 'G'] 5 4 ['G', 'B', 'Y', 'O'] E68 [['B', 'G', 'O', 'R'], ['G', 'O', 'R', 'Y']] 4 0 E263 ['Y', 'O', 'B', 'G'] [['B', 'G', 'O', 'R'], ['G', 'O', 'R', 'Y'], ['G', 'B', 'Y', 'O']] rfl ((calc_eq_fastP ['Y', 'O', 'B', 'G'] ['G', 'B', 'Y', 'O'] (by decide) (by decide)).trans (by decide)) (by decide) pe263 rfl nx263 (by decide) (by decide) (by decide)).trans ?_
  refine Eq.trans (step_lift ['G', 'B', 'Y', 'O'] (?_ : loopRun (honest ['Y', 'O', 'B', 'G']) 4 (some ['Y', 'O', 'B', 'G']) E263 [['B', 'G', 'O', 'R'], ['G', 'O', 'R', 'Y'], ['G', 'B', 'Y', 'O']] = (RunResult.solved ['Y', 'O', 'B', 'G'] 4, [['Y', 'O', 'B', 'G']]))) rfl
  exact loopRun_last ['Y', 'O', 'B', 'G'] 4 3 E263 [['B', 'G', 'O', 'R'], ['G', 'O', 'R', 'Y'], ['G', 'B', 'Y', 'O']] rfl rfl (by decide)

lemma rs265 : loopRun (honest ['Y', 'O', 'B', 'R']) 7 none S0 [] =
    (RunResult.solved ['Y', 'O', 'B', 'R'] 5, [['B', 'G', 'O', 'R'], ['B', 'O', 'R', 'Y'], ['B', 'R', 'Y', 'O'], ['R', 'B', 'O', 'Y'], ['Y', 'O', 'B', 'R']]) := by
  refine (loopRun_none' (honest ['Y', 'O', 'B', 'R']) 7 S0 []).trans ?_
  refine (loopRun_step ['Y', 'O', 'B', 'R'] 7 6 ['B', 'G', 'O', 'R'] S0 [] 2 1 E13 ['B', 'O', 'R', 'Y'] [['B', 'G', 'O', 'R']] rfl ((calc_eq_fastP ['Y', 'O', 'B', 'R'] ['B', 'G', 'O', 'R'] (by decide) (by decide)).trans (by decide)) (by decide) pe13 rfl nx13 (by decide) (by decide) (by decide)).trans ?_
  refine Eq.trans (step_lift ['B', 'G', 'O', 'R'] (?_ : loopRun (honest ['Y', 'O', 'B', 'R']) 6 (some ['B', 'O', 'R', 'Y']) E13 [['B', 'G', 'O', 'R']] = (RunResult.solved ['Y', 'O', 'B', 'R'] 5, [['B', 'O', 'R', 'Y'], ['B', 'R', 'Y', 'O'], ['R', 'B', 'O', 'Y'], ['Y', 'O', 'B', 'R']]))) rfl
  refine (loopRun_step ['Y', 'O', 'B', 'R'] 6 5 ['B', 'O', 'R', 'Y'] E13 [['B', 'G', 'O', 'R']] 3 1 E31 ['B', 'R', 'Y', 'O'] [['B', 'G', 'O', 'R'], ['B', 'O', 'R', 'Y']] rfl ((calc_eq_fastP ['Y', 'O', 'B', 'R'] ['B', 'O', 'R', 'Y'] (by decide) (by decide)).trans (by decide)) (by decide) pe31 rfl nx31 (by decide) (by decide) (by decide)).trans ?_
  refine Eq.trans (step_lift ['B', 'O', 'R', 'Y'] (?_ : loopRun (honest ['Y', 'O', 'B', 'R']) 5 (some ['B', 'R', 'Y', 'O']) E31 [['B', 'G', 'O', 'R'], ['B', 'O', 'R', 'Y']] = (RunResult.solved ['Y', 'O', 'B', 'R'] 5, [['B', 'R', 'Y', 'O'], ['R', 'B', 'O', 'Y'], ['Y', 'O', 'B', 'R']]))) rfl
  refine (loopRun_step ['Y', 'O', 'B', 'R'] 5 4 ['B', 'R', 'Y', 'O'] E31 [['B', 'G', 'O', 'R'], ['B', 'O', 'R', 'Y']] 4 0 E186 ['R', 'B', 'O', 'Y'] [['B', 'G', 'O', 'R'], ['B', 'O', 'R', 'Y'], ['B', 'R', 'Y', 'O']] rfl ((calc_eq_fastP ['Y', 'O', 'B', 'R'] ['B', 'R', 'Y', 'O'] (by decide) (by decide)).trans (by decide)) (by decide) pe186 rfl nx186 (by decide) (by decide) (by decide)).trans ?_
  refine Eq.trans (step_lift ['B', 'R', 'Y', 'O'] (?_ : loopRun (honest ['Y', 'O', 'B', 'R']) 4 (some ['R', 'B', 'O', 'Y']) E186 [['B', 'G', 'O', 'R'], ['B', 'O', 'R', 'Y'], ['B', 'R', 'Y', 'O']] = (RunResult.solved ['Y', 'O', 'B', 'R'] 5, [['R', 'B', 'O', 'Y'], ['Y', 'O', 'B', 'R']]))) rfl
  refine (loopRun_step ['Y', 'O', 'B', 'R'] 4 3 ['R', 'B', 'O', 'Y'] E186 [['B', 'G', 'O', 'R'], ['B', 'O', 'R', 'Y'], ['B', 'R', 'Y', 'O']] 4 0 [['Y', 'O', 'B', 'R']] ['Y', 'O', 'B', 'R'] [['B', 'G', 'O', 'R'], ['B', 'O', 'R', 'Y'], ['B', 'R', 'Y', 'O'], ['R', 'B', 'O', 'Y']] rfl ((calc_eq_fastP ['Y', 'O', 'B', 'R'] ['R', 'B', 'O', 'Y'] (by decide) (by decide)).trans (by decide)) (by decide) pe264 rfl (findNextGuess_singleton ['Y', 'O', 'B', 'R'] [['B', 'G', 'O', 'R'], ['B', 'O', 'R', 'Y'], ['B', 'R', 'Y', 'O'], ['R', 'B', 'O', 'Y']]) (by decide) (by decide) (by decide)).trans ?_
  refine Eq.trans (step_lift ['R', 'B', 'O', 'Y'] (?_ : loopRun (honest ['Y', 'O', 'B', 'R']) 3 (some ['Y', 'O', 'B', 'R']) [['Y', 'O', 'B', 'R']] [['B', 'G', 'O', 'R'], ['B', 'O', 'R', 'Y'], ['B', 'R', 'Y', 'O'], ['R', 'B', 'O', 'Y']] = (RunResult.solved ['Y', 'O', 'B', 'R'] 5, [['Y', 'O', 'B', 'R']]))) rfl
  exact loopRun_last ['Y', 'O', 'B', 'R'] 3 2 [['Y', 'O', 'B', 'R']] [['B', 'G', 'O', 'R'], ['B', 'O', 'R', 'Y'], ['B', 'R', 'Y', 'O'], ['R', 'B', 'O', 'Y']] rfl rfl (by decide)

lemma rs266 : loopRun (honest ['Y', 'O', 'B', 'P']) 7 none S0 [] =
    (RunResult.solved ['Y', 'O', 'B', 'P'] 5, [['B', 'G', 'O', 'R'], ['G', 'Y', 'R', 'P'], ['O', 'B', 'Y', 'P'], ['O', 'Y', 'P', 'B'], ['Y', 'O', 'B', 'P']]) := by
  refine (loopRun_none' (honest ['Y', 'O', 'B', 'P']) 7 S0 []).trans ?_
  refine (loopRun_step ['Y', 'O', 'B', 'P'] 7 6 ['B', 'G', 'O', 'R'] S0 [] 2 0 E72 ['G', 'Y', 'R', 'P'] [['B', 'G', 'O', 'R']] rfl ((calc_eq_fastP ['Y', 'O', 'B', 'P'] ['B', 'G', 'O', 'R'] (by decide) (by decide)).trans (by decide)) (by decide) pe72 rfl nx72 (by decide) (by decide) (by decide)).trans ?_
  refine Eq.trans (step_lift ['B', 'G', 'O', 'R'] (?_ : loopRun (honest ['Y', 'O', 'B', 'P']) 6 (some ['G', 'Y', 'R', 'P']) E72 [['B', 'G', 'O', 'R']] = (RunResult.solved ['Y', 'O', 'B', 'P'] 5, [['G', 'Y', 'R', 'P'], ['O', 'B', 'Y', 'P'], ['O', 'Y', 'P', 'B'], ['Y', 'O', 'B', 'P']]))) rfl
  refine (loopRun_step ['Y', 'O', 'B', 'P'] 6 5 ['G', 'Y', 'R', 'P'] E72 [['B', 'G', 'O', 'R']] 1 1 E131 ['O', 'B', 'Y', 'P'] [['B', 'G', 'O', 'R'], ['G', 'Y', 'R', 'P']] rfl ((calc_eq_fastP ['Y', 'O', 'B', 'P'] ['G', 'Y', 'R', 'P'] (by decide) (by decide)).trans (by decide)) (by decide) pe131 rfl nx131 (by decide) (by decide) (by decide)).trans ?_
  refine Eq.trans (step_lift ['G', 'Y', 'R', 'P'] (?_ : loopRun (honest ['Y', 'O', 'B', 'P']) 5 (some ['O', 'B', 'Y', 'P']) E131 [['B', 'G', 'O', 'R'], ['G', 'Y', 'R', 'P']] = (RunResult.solved ['Y', 'O', 'B', 'P'] 5, [['O', 'B', 'Y', 'P'], ['O', 'Y', 'P', 'B'], ['Y', 'O', 'B', 'P']]))) rfl
  refine (loopRun_step ['Y', 'O', 'B', 'P'] 5 4 ['O', 'B', 'Y', 'P'] E131 [['B', 'G', 'O', 'R'], ['G', 'Y', 'R', 'P']] 3 1 E168 ['O', 'Y', 'P', 'B'] [['B', 'G', 'O', 'R'], ['G', 'Y', 'R', 'P'], ['O', 'B', 'Y', 'P']] rfl ((calc_eq_fastP ['Y', 'O', 'B', 'P'] ['O', 'B', 'Y', 'P'] (by decide) (by decide)).trans (by decide)) (by decide) pe168 rfl nx168 (by decide) (by decide) (by decide)).trans ?_
  refine Eq.trans (step_lift ['O', 'B', 'Y', 'P'] (?_ : loopRun (honest ['Y', 'O', 'B', 'P']) 4 (some ['O', 'Y', 'P', 'B']) E168 [['B', 'G', 'O', 'R'], ['G', 'Y', 'R', 'P'], ['O', 'B', 'Y', 'P']] = (RunResult.solved ['Y', 'O', 'B', 'P'] 5, [['O', 'Y', 'P', 'B'], ['Y', 'O', 'B', 'P']]))) rfl
  refine (loopRun_step ['Y', 'O', 'B', 'P'] 4 3 ['O', 'Y', 'P', 'B'] E168 [['B', 'G', 'O', 'R'], ['G', 'Y', 'R', 'P'], ['O', 'B', 'Y', 'P']] 4 0 [['Y', 'O', 'B', 'P']] ['Y', 'O', 'B', 'P'] [['B', 'G', 'O', 'R'], ['G', 'Y', 'R', 'P'], ['O', 'B', 'Y', 'P'], ['O', 'Y', 'P', 'B']] rfl ((calc_eq_fastP ['Y', 'O', 'B', 'P'] ['O', 'Y', 'P', 'B'] (by decide) (by decide)).trans (by decide)) (by decide) pe265 rfl (findNextGuess_singleton ['Y', 'O', 'B', 'P'] [['B', 'G', 'O', 'R'], ['G', 'Y', 'R', 'P'], ['O', 'B', 'Y', 'P'], ['O', 'Y', 'P', 'B']]) (by decide) (by decide) (by decide)).trans ?_
  refine Eq.trans (step_lift ['O', 'Y', 'P', 'B'] (?_ : loopRun (honest ['Y', 'O', 'B', 'P']) 3 (some ['Y', 'O', 'B', 'P']) [['Y', 'O', 'B', 'P']] [['B', 'G', 'O', 'R'], ['G', 'Y', 'R', 'P'], ['O', 'B', 'Y', 'P'], ['O', 'Y', 'P', 'B']] = (RunResult.solved ['Y', 'O', 'B', 'P'] 5, [['Y', 'O', 'B', 'P']]))) rfl
  exact loopRun_last ['Y', 'O', 'B', 'P'] 3 2 [['Y', 'O', 'B', 'P']] [['B', 'G', 'O', 'R'], ['G', 'Y', 'R', 'P'], ['O', 'B', 'Y', 'P'], ['O', 'Y', 'P', 'B']] rfl rfl (by decide)

lemma rs267 : loopRun (honest ['Y', 'O', 'G', 'B']) 7 none S0 [] =
    (RunResult.solved ['Y', 'O', 'G', 'B'] 5, [['B', 'G', 'O', 'R'], ['G', 'O', 'R', 'Y'], ['G', 'B', 'Y', 'O'], ['Y', 'O', 'B', 'G'], ['Y', 'O', 'G', 'B']]) := by
  refine (loopRun_none' (honest ['Y', 'O', 'G', 'B']) 7 S0 []).trans ?_
  refine (loopRun_step ['Y', 'O', 'G', 'B'] 7 6 ['B', 'G', 'O', 'R'] S0 [] 3 0 E65 ['G', 'O', 'R', 'Y'] [['B', 'G', 'O', 'R']] rfl ((calc_eq_fastP ['Y', 'O', 'G', 'B'] ['B', 'G', 'O', 'R'] (by decide) (by decide)).trans (by decide)) (by decide) pe65 rfl nx65 (by decide) (by decide) (by decide)).trans ?_
  refine Eq.trans (step_lift ['B', 'G', 'O', 'R'] (?_ : loopRun (honest ['Y', 'O', 'G', 'B']) 6 (some ['G', 'O', 'R', 'Y']) E65 [['B', 'G', 'O', 'R']] = (RunResult.solved ['Y', 'O', 'G', 'B'] 5, [['G', 'O', 'R', 'Y'], ['G', 'B', 'Y', 'O'], ['Y', 'O', 'B', 'G'], ['Y', 'O', 'G', 'B']]))) rfl
  refine (loopRun_step ['Y', 'O', 'G', 'B'] 6 5 ['G', 'O', 'R', 'Y'] E65 [['B', 'G', 'O', 'R']] 2 1 E68 ['G', 'B', 'Y', 'O'] [['B', 'G', 'O', 'R'], ['G', 'O', 'R', 'Y']] rfl ((calc_eq_fastP ['Y', 'O', 'G', 'B'] ['G', 'O', 'R', 'Y'] (by decide) (by decide)).trans (by decide)) (by decide) pe68 rfl nx68 (by decide) (by decide) (by decide)).trans ?_
  refine Eq.trans (step_lift ['G', 'O', 'R', 'Y'] (?_ : loopRun (honest ['Y', 'O', 'G', 'B']) 5 (some ['G', 'B', 'Y', 'O']) E68 [['B', 'G', 'O', 'R'], ['G', 'O', 'R', 'Y']] = (RunResult.solved ['Y', 'O', 'G', 'B'] 5, [['G', 'B', 'Y', 'O'], ['Y', 'O', 'B', 'G'], ['Y', 'O', 'G', 'B']]))) rfl
  refine (loopRun_step ['Y', 'O', 'G', 'B'] 5 4 ['G', 'B', 'Y', 'O'] E68 [['B', 'G', 'O', 'R'], ['G', 'O', 'R', 'Y']] 4 0 E263 ['Y', 'O', 'B', 'G'] [['B', 'G', 'O', 'R'], ['G', 'O', 'R', 'Y'], ['G', 'B', 'Y', 'O']] rfl ((calc_eq_fastP ['Y', 'O', 'G', 'B'] ['G', 'B', 'Y', 'O'] (by decide) (by decide)).trans (by decide)) (by decide) pe263 rfl nx263 (by decide) (by decide) (by decide)).trans ?_
  refine Eq.trans (step_lift ['G', 'B', 'Y', 'O'] (?_ : loopRun (honest ['Y', 'O', 'G', 'B']) 4 (some ['Y', 'O', 'B', 'G']) E263 [['B', 'G', 'O', 'R'], ['G', 'O', 'R', 'Y'], ['G', 'B', 'Y', 'O']] = (RunResult.solved ['Y', 'O', 'G', 'B'] 5, [['Y', 'O', 'B', 'G'], ['Y', 'O', 'G', 'B']]))) rfl
  refine (loopRun_step ['Y', 'O', 'G', 'B'] 4 3 ['Y', 'O', 'B', 'G'] E263 [['B', 'G', 'O', 'R'], ['G', 'O', 'R', 'Y'], ['G', 'B', 'Y', 'O']] 2 2 [['Y', 'O', 'G', 'B']] ['Y', 'O', 'G', 'B'] [['B', 'G', 'O', 'R'], ['G', 'O', 'R', 'Y'], ['G', 'B', 'Y', 'O'], ['Y', 'O', 'B', 'G']] rfl ((calc_eq_fastP ['Y', 'O', 'G', 'B'] ['Y', 'O', 'B', 'G'] (by decide) (by decide)).trans (by decide)) (by decide) pe266 rfl (findNextGuess_singleton ['Y', 'O', 'G', 'B'] [['B', 'G', 'O', 'R'], ['G', 'O', 'R', 'Y'], ['G', 'B', 'Y', 'O'], ['Y', 'O', 'B', 'G']]) (by decide) (by decide) (by decide)).trans ?_
  refine Eq.trans (step_lift ['Y', 'O', 'B', 'G'] (?_ : loopRun (honest ['Y', 'O', 'G', 'B']) 3 (some ['Y', 'O', 'G', 'B']) [['Y', 'O', 'G', 'B']] [['B', 'G', 'O', 'R'], ['G', 'O', 'R', 'Y'], ['G', 'B', 'Y', 'O'], ['Y', 'O', 'B', 'G']] = (RunResult.solved ['Y', 'O', 'G', 'B'] 5, [['Y', 'O', 'G', 'B']]))) rfl
  exact loopRun_last ['Y', 'O', 'G', 'B'] 3 2 [['Y', 'O', 'G', 'B']] [['B', 'G', 'O', 'R'], ['G', 'O', 'R', 'Y'], ['G', 'B', 'Y', 'O'], ['Y', 'O', 'B', 'G']] rfl rfl (by decide)

lemma rs268 : loopRun (honest ['Y', 'O', 'G', 'R']) 7 none S0 [] =
    (RunResult.solved ['Y', 'O', 'G', 'R'] 5, [['B', 'G', 'O', 'R'], ['B', 'O', 'R', 'Y'], ['G', 'R', 'O', 'Y'], ['Y', 'G', 'R', 'O'], ['Y', 'O', 'G', 'R']]) := by
  refine (loopRun_none' (honest ['Y', 'O', 'G', 'R']) 7 S0 []).trans ?_
  refine (loopRun_step ['Y', 'O', 'G', 'R'] 7 6 ['B', 'G', 'O', 'R'] S0 [] 2 1 E13 ['B', 'O', 'R', 'Y'] [['B', 'G', 'O', 'R']] rfl ((calc_eq_fastP ['Y', 'O', 'G', 'R'] ['B', 'G', 'O', 'R'] (by decide) (by decide)).trans (by decide)) (by decide) pe13 rfl nx13 (by decide) (by decide) (by decide)).trans ?_
  refine Eq.trans (step_lift ['B', 'G', 'O', 'R'] (?_ : loopRun (honest ['Y', 'O', 'G', 'R']) 6 (some ['B', 'O', 'R', 'Y']) E13 [['B', 'G', 'O', 'R']] = (RunResult.solved ['Y', 'O', 'G', 'R'] 5, [['B', 'O', 'R', 'Y'], ['G', 'R', 'O', 'Y'], ['Y', 'G', 'R', 'O'], ['Y', 'O', 'G', 'R']]))) rfl
  refine (loopRun_step ['Y', 'O', 'G', 'R'] 6 5 ['B', 'O', 'R', 'Y'] E13 [['B', 'G', 'O', 'R']] 2 1 E29 ['G', 'R', 'O', 'Y'] [['B', 'G', 'O', 'R'], ['B', 'O', 'R', 'Y']] rfl ((calc_eq_fastP ['Y', 'O', 'G', 'R'] ['B', 'O', 'R', 'Y'] (by decide) (by decide)).trans (by decide)) (by decide) pe29 rfl nx29 (by decide) (by decide) (by decide)).trans ?_
  refine Eq.trans (step_lift ['B', 'O', 'R', 'Y'] (?_ : loopRun (honest ['Y', 'O', 'G', 'R']) 5 (some ['G', 'R', 'O', 'Y']) E29 [['B', 'G', 'O', 'R'], ['B', 'O', 'R', 'Y']] = (RunResult.solved ['Y', 'O', 'G', 'R'] 5, [['G', 'R', 'O', 'Y'], ['Y', 'G', 'R', 'O'], ['Y', 'O', 'G', 'R']]))) rfl
  refine (loopRun_step ['Y', 'O', 'G', 'R'] 5 4 ['G', 'R', 'O', 'Y'] E29 [['B', 'G', 'O', 'R'], ['B', 'O', 'R', 'Y']] 4 0 E258 ['Y', 'G', 'R', 'O'] [['B', 'G', 'O', 'R'], ['B', 'O', 'R', 'Y'], ['G', 'R', 'O', 'Y']] rfl ((calc_eq_fastP ['Y', 'O', 'G', 'R'] ['G', 'R', 'O', 'Y'] (by decide) (by decide)).trans (by decide)) (by decide) pe258 rfl nx258 (by decide) (by decide) (by decide)).trans ?_
  refine Eq.trans (step_lift ['G', 'R', 'O', 'Y'] (?_ : loopRun (honest ['Y', 'O', 'G', 'R']) 4 (some ['Y', 'G', 'R', 'O']) E258 [['B', 'G', 'O', 'R'], ['B', 'O', 'R', 'Y'], ['G', 'R', 'O', 'Y']] = (RunResult.solved ['Y', 'O', 'G', 'R'] 5, [['Y', 'G', 'R', 'O'], ['Y', 'O', 'G', 'R']]))) rfl
  refine (loopRun_step ['Y', 'O', 'G', 'R'] 4 3 ['Y', 'G', 'R', 'O'] E258 [['B', 'G', 'O', 'R'], ['B', 'O', 'R', 'Y'], ['G', 'R', 'O', 'Y']] 3 1 [['Y', 'O', 'G', 'R']] ['Y', 'O', 'G', 'R'] [['B', 'G', 'O', 'R'], ['B', 'O', 'R', 'Y'], ['G', 'R', 'O', 'Y'], ['Y', 'G', 'R', 'O']] rfl ((calc_eq_fastP ['Y', 'O', 'G', 'R'] ['Y', 'G', 'R', 'O'] (by decide) (by decide)).trans (by decide)) (by decide) pe267 rfl (findNextGuess_singleton ['Y', 'O', 'G', 'R'] [['B', 'G', 'O', 'R'], ['B', 'O', 'R', 'Y'], ['G', 'R', 'O', 'Y'], ['Y', 'G', 'R', 'O']]) (by decide) (by decide) (by decide)).trans ?_
  refine Eq.trans (step_lift ['Y', 'G', 'R', 'O'] (?_ : loopRun (honest ['Y', 'O', 'G', 'R']) 3 (some ['Y', 'O', 'G', 'R']) [['Y', 'O', 'G', 'R']] [['B', 'G', 'O', 'R'], ['B', 'O', 'R', 'Y'], ['G', 'R', 'O', 'Y'], ['Y', 'G', 'R', 'O']] = (RunResult.solved ['Y', 'O', 'G', 'R'] 5, [['Y', 'O', 'G', 'R']]))) rfl
  exact loopRun_last ['Y', 'O', 'G', 'R'] 3 2 [['Y', 'O', 'G', 'R']] [['B', 'G', 'O', 'R'], ['B', 'O', 'R', 'Y'], ['G', 'R', 'O', 'Y'], ['Y', 'G', 'R', 'O']] rfl rfl (by decide)

lemma rs269 : loopRun (honest ['Y', 'O', 'G', 'P']) 7 none S0 [] =
    (RunResult.solved ['Y', 'O', 'G', 'P'] 4, [['B', 'G', 'O', 'R'], ['G', 'Y', 'R', 'P'], ['G', 'B', 'P', 'Y'], ['Y', 'O', 'G', 'P']]) := by
  refine (loopRun_none' (honest ['Y', 'O', 'G', 'P']) 7 S0 []).trans ?_
  refine (loopRun_step ['Y', 'O', 'G', 'P'] 7 6 ['B', 'G', 'O', 'R'] S0 [] 2 0 E72 ['G', 'Y', 'R', 'P'] [['B', 'G', 'O', 'R']] rfl ((calc_eq_fastP ['Y', 'O', 'G', 'P'] ['B', 'G', 'O', 'R'] (by decide) (by decide)).trans (by decide)) (by decide) pe72 rfl nx72 (by decide) (by decide) (by decide)).trans ?_
  refine Eq.trans (step_lift ['B', 'G', 'O', 'R'] (?_ : loopRun (honest ['Y', 'O', 'G', 'P']) 6 (some ['G', 'Y', 'R', 'P']) E72 [['B', 'G', 'O', 'R']] = (RunResult.solved ['Y', 'O', 'G', 'P'] 4, [['G', 'Y', 'R', 'P'], ['G', 'B', 'P', 'Y'], ['Y', 'O', 'G', 'P']]))) rfl
  refine (loopRun_step ['Y', 'O', 'G', 'P'] 6 5 ['G', 'Y', 'R', 'P'] E72 [['B', 'G', 'O', 'R']] 2 1 E78 ['G', 'B', 'P', 'Y'] [['B', 'G', 'O', 'R'], ['G', 'Y', 'R', 'P']] rfl ((calc_eq_fastP ['Y', 'O', 'G', 'P'] ['G', 'Y', 'R', 'P'] (by decide) (by decide)).trans (by decide)) (by decide) pe78 rfl nx78 (by decide) (by decide) (by decide)).trans ?_
  refine Eq.trans (step_lift ['G', 'Y', 'R', 'P'] (?_ : loopRun (honest ['Y', 'O', 'G', 'P']) 5 (some ['G', 'B', 'P', 'Y']) E78 [['B', 'G', 'O', 'R'], ['G', 'Y', 'R', 'P']] = (RunResult.solved ['Y', 'O', 'G', 'P'] 4, [['G', 'B', 'P', 'Y'], ['Y', 'O', 'G', 'P']]))) rfl
  refine (loopRun_step ['Y', 'O', 'G', 'P'] 5 4 ['G', 'B', 'P', 'Y'] E78 [['B', 'G', 'O', 'R'], ['G', 'Y', 'R', 'P']] 3 0 E268 ['Y', 'O', 'G', 'P'] [['B', 'G', 'O', 'R'], ['G', 'Y', 'R', 'P'], ['G', 'B', 'P', 'Y']] rfl ((calc_eq_fastP ['Y', 'O', 'G', 'P'] ['G', 'B', 'P', 'Y'] (by decide) (by decide)).trans (by decide)) (by decide) pe268 rfl nx268 (by decide) (by decide) (by decide)).trans ?_
  refine Eq.trans (step_lift ['G', 'B', 'P', 'Y'] (?_ : loopRun (honest ['Y', 'O', 'G', 'P']) 4 (some ['Y', 'O', 'G', 'P']) E268 [['B', 'G', 'O', 'R'], ['G', 'Y', 'R', 'P'], ['G', 'B', 'P', 'Y']] = (RunResult.solved ['Y', 'O', 'G', 'P'] 4, [['Y', 'O', 'G', 'P']]))) rfl
  exact loopRun_last ['Y', 'O', 'G', 'P'] 4 3 E268 [['B', 'G', 'O', 'R'], ['G', 'Y', 'R', 'P'], ['G', 'B', 'P', 'Y']] rfl rfl (by decide)

lemma rs270 : loopRun (honest ['Y', 'O', 'R', 'B']) 7 none S0 [] =
    (RunResult.solved ['Y', 'O', 'R', 'B'] 5, [['B', 'G', 'O', 'R'], ['G', 'O', 'R', 'Y'], ['G', 'O', 'Y', 'B'], ['G', 'Y', 'R', 'B'], ['Y', 'O', 'R', 'B']]) := by
  refine (loopRun_none' (honest ['Y', 'O', 'R', 'B']) 7 S0 []).trans ?_
  refine (loopRun_step ['Y', 'O', 'R', 'B'] 7 6 ['B', 'G', 'O', 'R'] S0 [] 3 0 E65 ['G', 'O', 'R', 'Y'] [['B', 'G', 'O', 'R']] rfl ((calc_eq_fastP ['Y', 'O', 'R', 'B'] ['B', 'G', 'O', 'R'] (by decide) (by decide)).trans (by decide)) (by decide) pe65 rfl nx65 (by decide) (by decide) (by decide)).trans ?_
  refine Eq.trans (step_lift ['B', 'G', 'O', 'R'] (?_ : loopRun (honest ['Y', 'O', 'R', 'B']) 6 (some ['G', 'O', 'R', 'Y']) E65 [['B', 'G', 'O', 'R']] = (RunResult.solved ['Y', 'O', 'R', 'B'] 5, [['G', 'O', 'R', 'Y'], ['G', 'O', 'Y', 'B'], ['G', 'Y', 'R', 'B'], ['Y', 'O', 'R', 'B']]))) rfl
  refine (loopRun_step ['Y', 'O', 'R', 'B'] 6 5 ['G', 'O', 'R', 'Y'] E65 [['B', 'G', 'O', 'R']] 1 2 E84 ['G', 'O', 'Y', 'B'] [['B', 'G', 'O', 'R'], ['G', 'O', 'R', 'Y']] rfl ((calc_eq_fastP ['Y', 'O', 'R', 'B'] ['G', 'O', 'R', 'Y'] (by decide) (by decide)).trans (by decide)) (by decide) pe84 rfl nx84 (by decide) (by decide) (by decide)).trans ?_
  refine Eq.trans (step_lift ['G', 'O', 'R', 'Y'] (?_ : loopRun (honest ['Y', 'O', 'R', 'B']) 5 (some ['G', 'O', 'Y', 'B']) E84 [['B', 'G', 'O', 'R'], ['G', 'O', 'R', 'Y']] = (RunResult.solved ['Y', 'O', 'R', 'B'] 5, [['G', 'O', 'Y', 'B'], ['G', 'Y', 'R', 'B'], ['Y', 'O', 'R', 'B']]))) rfl
  refine (loopRun_step ['Y', 'O', 'R', 'B'] 5 4 ['G', 'O', 'Y', 'B'] E84 [['B', 'G', 'O', 'R'], ['G', 'O', 'R', 'Y']] 1 2 E105 ['G', 'Y', 'R', 'B'] [['B', 'G', 'O', 'R'], ['G', 'O', 'R', 'Y'], ['G', 'O', 'Y', 'B']] rfl ((calc_eq_fastP ['Y', 'O', 'R', 'B'] ['G', 'O', 'Y', 'B'] (by decide) (by decide)).trans (by decide)) (by decide) pe105 rfl nx105 (by decide) (by decide) (by decide)).trans ?_
  refine Eq.trans (step_lift ['G', 'O', 'Y', 'B'] (?_ : loopRun (honest ['Y', 'O', 'R', 'B']) 4 (some ['G', 'Y', 'R', 'B']) E105 [['B', 'G', 'O', 'R'], ['G', 'O', 'R', 'Y'], ['G', 'O', 'Y', 'B']] = (RunResult.solved ['Y', 'O', 'R', 'B'] 5, [['G', 'Y', 'R', 'B'], ['Y', 'O', 'R', 'B']]))) rfl
  refine (loopRun_step ['Y', 'O', 'R', 'B'] 4 3 ['G', 'Y', 'R', 'B'] E105 [['B', 'G', 'O', 'R'], ['G', 'O', 'R', 'Y'], ['G', 'O', 'Y', 'B']] 1 2 [['Y', 'O', 'R', 'B']] ['Y', 'O', 'R', 'B'] [['B', 'G', 'O', 'R'], ['G', 'O', 'R', 'Y'], ['G', 'O', 'Y', 'B'], ['G', 'Y', 'R', 'B']] rfl ((calc_eq_fastP ['Y', 'O', 'R', 'B'] ['G', 'Y', 'R', 'B'] (by decide) (by decide)).trans (by decide)) (by decide) pe269 rfl (findNextGuess_singleton ['Y', 'O', 'R', 'B'] [['B', 'G', 'O', 'R'], ['G', 'O', 'R', 'Y'], ['G', 'O', 'Y', 'B'], ['G', 'Y', 'R', 'B']]) (by decide) (by decide) (by decide)).trans ?_
  refine Eq.trans (step_lift ['G', 'Y', 'R', 'B'] (?_ : loopRun (honest ['Y', 'O', 'R', 'B']) 3 (some ['Y', 'O', 'R', 'B']) [['Y', 'O', 'R', 'B']] [['B', 'G', 'O', 'R'], ['G', 'O', 'R', 'Y'], ['G', 'O', 'Y', 'B'], ['G', 'Y', 'R', 'B']] = (RunResult.solved ['Y', 'O', 'R', 'B'] 5, [['Y', 'O', 'R', 'B']]))) rfl
  exact loopRun_last ['Y', 'O', 'R', 'B'] 3 2 [['Y', 'O', 'R', 'B']] [['B', 'G', 'O', 'R'], ['G', 'O', 'R', 'Y'], ['G', 'O', 'Y', 'B'], ['G', 'Y', 'R', 'B']] rfl rfl (by decide)

lemma rs271 : loopRun (honest ['Y', 'O', 'R', 'G']) 7 none S0 [] =
    (RunResult.solved ['Y', 'O', 'R', 'G'] 4, [['B', 'G', 'O', 'R'], ['G', 'O', 'R', 'Y'], ['G', 'Y', 'R', 'O'], ['Y', 'O', 'R', 'G']]) := by
  refine (loopRun_none' (honest ['Y', 'O', 'R', 'G']) 7 S0 []).trans ?_
  refine (loopRun_step ['Y', 'O', 'R', 'G'] 7 6 ['B', 'G', 'O', 'R'] S0 [] 3 0 E65 ['G', 'O', 'R', 'Y'] [['B', 'G', 'O', 'R']] rfl ((calc_eq_fastP ['Y', 'O', 'R', 'G'] ['B', 'G', 'O', 'R'] (by decide) (by decide)).trans (by decide)) (by decide) pe65 rfl nx65 (by decide) (by decide) (by decide)).trans ?_
  refine Eq.trans (step_lift ['B', 'G', 'O', 'R'] (?_ : loopRun (honest ['Y', 'O', 'R', 'G']) 6 (some ['G', 'O', 'R', 'Y']) E65 [['B', 'G', 'O', 'R']] = (RunResult.solved ['Y', 'O', 'R', 'G'] 4, [['G', 'O', 'R', 'Y'], ['G', 'Y', 'R', 'O'], ['Y', 'O', 'R', 'G']]))) rfl
  refine (loopRun_step ['Y', 'O', 'R', 'G'] 6 5 ['G', 'O', 'R', 'Y'] E65 [['B', 'G', 'O', 'R']] 2 2 E106 ['G', 'Y', 'R', 'O'] [['B', 'G', 'O', 'R'], ['G', 'O', 'R', 'Y']] rfl ((calc_eq_fastP ['Y', 'O', 'R', 'G'] ['G', 'O', 'R', 'Y'] (by decide) (by decide)).trans (by decide)) (by decide) pe106 rfl nx106 (by decide) (by decide) (by decide)).trans ?_
  refine Eq.trans (step_lift ['G', 'O', 'R', 'Y'] (?_ : loopRun (honest ['Y', 'O', 'R', 'G']) 5 (some ['G', 'Y', 'R', 'O']) E106 [['B', 'G', 'O', 'R'], ['G', 'O', 'R', 'Y']] = (RunResult.solved ['Y', 'O', 'R', 'G'] 4, [['G', 'Y', 'R', 'O'], ['Y', 'O', 'R', 'G']]))) rfl
  refine (loopRun_step ['Y', 'O', 'R', 'G'] 5 4 ['G', 'Y', 'R', 'O'] E106 [['B', 'G', 'O', 'R'], ['G', 'O', 'R', 'Y']] 3 1 [['Y', 'O', 'R', 'G']] ['Y', 'O', 'R', 'G'] [['B', 'G', 'O', 'R'], ['G', 'O', 'R', 'Y'], ['G', 'Y', 'R', 'O']] rfl ((calc_eq_fastP ['Y', 'O', 'R', 'G'] ['G', 'Y', 'R', 'O'] (by decide) (by decide)).trans (by decide)) (by decide) pe270 rfl (findNextGuess_singleton ['Y', 'O', 'R', 'G'] [['B', 'G', 'O', 'R'], ['G', 'O', 'R', 'Y'], ['G', 'Y', 'R', 'O']]) (by decide) (by decide) (by decide)).trans ?_
  refine Eq.trans (step_lift ['G', 'Y', 'R', 'O'] (?_ : loopRun (honest ['Y', 'O', 'R', 'G']) 4 (some ['Y', 'O', 'R', 'G']) [['Y', 'O', 'R', 'G']] [['B', 'G', 'O', 'R'], ['G', 'O', 'R', 'Y'], ['G', 'Y', 'R', 'O']] = (RunResult.solved ['Y', 'O', 'R', 'G'] 4, [['Y', 'O', 'R', 'G']]))) rfl
  exact loopRun_last ['Y', 'O', 'R', 'G'] 4 3 [['Y', 'O', 'R', 'G']] [['B', 'G', 'O', 'R'], ['G', 'O', 'R', 'Y'], ['G', 'Y', 'R', 'O']] rfl rfl (by decide)

lemma rs272 : loopRun (honest ['Y', 'O', 'R', 'P']) 7 none S0 [] =
    (RunResult.solved ['Y', 'O', 'R', 'P'] 4, [['B', 'G', 'O', 'R'], ['G', 'Y', 'R', 'P'], ['G', 'O', 'Y', 'P'], ['Y', 'O', 'R', 'P']]) := by
  refine (loopRun_none' (honest ['Y', 'O', 'R', 'P']) 7 S0 []).trans ?_
  refine (loopRun_step ['Y', 'O', 'R', 'P'] 7 6 ['B', 'G', 'O', 'R'] S0 [] 2 0 E72 ['G', 'Y', 'R', 'P'] [['B', 'G', 'O', 'R']] rfl ((calc_eq_fastP ['Y', 'O', 'R', 'P'] ['B', 'G', 'O', 'R'] (by decide) (by decide)).trans (by decide)) (by decide) pe72 rfl nx72 (by decide) (by decide) (by decide)).trans ?_
  refine Eq.trans (step_lift ['B', 'G', 'O', 'R'] (?_ : loopRun (honest ['Y', 'O', 'R', 'P']) 6 (some ['G', 'Y', 'R', 'P']) E72 [['B', 'G', 'O', 'R']] = (RunResult.solved ['Y', 'O', 'R', 'P'] 4, [['G', 'Y', 'R', 'P'], ['G', 'O', 'Y', 'P'], ['Y', 'O', 'R', 'P']]))) rfl
  refine (loopRun_step ['Y', 'O', 'R', 'P'] 6 5 ['G', 'Y', 'R', 'P'] E72 [['B', 'G', 'O', 'R']] 1 2 E73 ['G', 'O', 'Y', 'P'] [['B', 'G', 'O', 'R'], ['G', 'Y', 'R', 'P']] rfl ((calc_eq_fastP ['Y', 'O', 'R', 'P'] ['G', 'Y', 'R', 'P'] (by decide) (by decide)).trans (by decide)) (by decide) pe73 rfl nx73 (by decide) (by decide) (by decide)).trans ?_
  refine Eq.trans (step_lift ['G', 'Y', 'R', 'P'] (?_ : loopRun (honest ['Y', 'O', 'R', 'P']) 5 (some ['G', 'O', 'Y', 'P']) E73 [['B', 'G', 'O', 'R'], ['G', 'Y', 'R', 'P']] = (RunResult.solved ['Y', 'O', 'R', 'P'] 4, [['G', 'O', 'Y', 'P'], ['Y', 'O', 'R', 'P']]))) rfl
  refine (loopRun_step ['Y', 'O', 'R', 'P'] 5 4 ['G', 'O', 'Y', 'P'] E73 [['B', 'G', 'O', 'R'], ['G', 'Y', 'R', 'P']] 1 2 [['Y', 'O', 'R', 'P']] ['Y', 'O', 'R', 'P'] [['B', 'G', 'O', 'R'], ['G', 'Y', 'R', 'P'], ['G', 'O', 'Y', 'P']] rfl ((calc_eq_fastP ['Y', 'O', 'R', 'P'] ['G', 'O', 'Y', 'P'] (by decide) (by decide)).trans (by decide)) (by decide) pe271 rfl (findNextGuess_singleton ['Y', 'O', 'R', 'P'] [['B', 'G', 'O', 'R'], ['G', 'Y', 'R', 'P'], ['G', 'O', 'Y', 'P']]) (by decide) (by decide) (by decide)).trans ?_
  refine Eq.trans (step_lift ['G', 'O', 'Y', 'P'] (?_ : loopRun (honest ['Y', 'O', 'R', 'P']) 4 (some ['Y', 'O', 'R', 'P']) [['Y', 'O', 'R', 'P']] [['B', 'G', 'O', 'R'], ['G', 'Y', 'R', 'P'], ['G', 'O', 'Y', 'P']] = (RunResult.solved ['Y', 'O', 'R', 'P'] 4, [['Y', 'O', 'R', 'P']]))) rfl
  exact loopRun_last ['Y', 'O', 'R', 'P'] 4 3 [['Y', 'O', 'R', 'P']] [['B', 'G', 'O', 'R'], ['G', 'Y', 'R', 'P'], ['G', 'O', 'Y', 'P']] rfl rfl (by decide)

lemma rs273 : loopRun (honest ['Y', 'O', 'P', 'B']) 7 none S0 [] =
    (RunResult.solved ['Y', 'O', 'P', 'B'] 5, [['B', 'G', 'O', 'R'], ['G', 'Y', 'R', 'P'], ['O', 'B', 'P', 'Y'], ['O', 'P', 'Y', 'B'], ['Y', 'O', 'P', 'B']]) := by
  refine (loopRun_none' (honest ['Y', 'O', 'P', 'B']) 7 S0 []).trans ?_
  refine (loopRun_step ['Y', 'O', 'P', 'B'] 7 6 ['B', 'G', 'O', 'R'] S0 [] 2 0 E72 ['G', 'Y', 'R', 'P'] [['B', 'G', 'O', 'R']] rfl ((calc_eq_fastP ['Y', 'O', 'P', 'B'] ['B', 'G', 'O', 'R'] (by decide) (by decide)).trans (by decide)) (by decide) pe72 rfl nx72 (by decide) (by decide) (by decide)).trans ?_
  refine Eq.trans (step_lift ['B', 'G', 'O', 'R'] (?_ : loopRun (honest ['Y', 'O', 'P', 'B']) 6 (some ['G', 'Y', 'R', 'P']) E72 [['B', 'G', 'O', 'R']] = (RunResult.solved ['Y', 'O', 'P', 'B'] 5, [['G', 'Y', 'R', 'P'], ['O', 'B', 'P', 'Y'], ['O', 'P', 'Y', 'B'], ['Y', 'O', 'P', 'B']]))) rfl
  refine (loopRun_step ['Y', 'O', 'P', 'B'] 6 5 ['G', 'Y', 'R', 'P'] E72 [['B', 'G', 'O', 'R']] 2 0 E133 ['O', 'B', 'P', 'Y'] [['B', 'G', 'O', 'R'], ['G', 'Y', 'R', 'P']] rfl ((calc_eq_fastP ['Y', 'O', 'P', 'B'] ['G', 'Y', 'R', 'P'] (by decide) (by decide)).trans (by decide)) (by decide) pe133 rfl nx133 (by decide) (by decide) (by decide)).trans ?_
  refine Eq.trans (step_lift ['G', 'Y', 'R', 'P'] (?_ : loopRun (honest ['Y', 'O', 'P', 'B']) 5 (some ['O', 'B', 'P', 'Y']) E133 [['B', 'G', 'O', 'R'], ['G', 'Y', 'R', 'P']] = (RunResult.solved ['Y', 'O', 'P', 'B'] 5, [['O', 'B', 'P', 'Y'], ['O', 'P', 'Y', 'B'], ['Y', 'O', 'P', 'B']]))) rfl
  refine (loopRun_step ['Y', 'O', 'P', 'B'] 5 4 ['O', 'B', 'P', 'Y'] E133 [['B', 'G', 'O', 'R'], ['G', 'Y', 'R', 'P']] 3 1 E180 ['O', 'P', 'Y', 'B'] [['B', 'G', 'O', 'R'], ['G', 'Y', 'R', 'P'], ['O', 'B', 'P', 'Y']] rfl ((calc_eq_fastP ['Y', 'O', 'P', 'B'] ['O', 'B', 'P', 'Y'] (by decide) (by decide)).trans (by decide)) (by decide) pe180 rfl nx180 (by decide) (by decide) (by decide)).trans ?_
  refine Eq.trans (step_lift ['O', 'B', 'P', 'Y'] (?_ : loopRun (honest ['Y', 'O', 'P', 'B']) 4 (some ['O', 'P', 'Y', 'B']) E180 [['B', 'G', 'O', 'R'], ['G', 'Y', 'R', 'P'], ['O', 'B', 'P', 'Y']] = (RunResult.solved ['Y', 'O', 'P', 'B'] 5, [['O', 'P', 'Y', 'B'], ['Y', 'O', 'P', 'B']]))) rfl
  refine (loopRun_step ['Y', 'O', 'P', 'B'] 4 3 ['O', 'P', 'Y', 'B'] E180 [['B', 'G', 'O', 'R'], ['G', 'Y', 'R', 'P'], ['O', 'B', 'P', 'Y']] 3 1 E272 ['Y', 'O', 'P', 'B'] [['B', 'G', 'O', 'R'], ['G', 'Y', 'R', 'P'], ['O', 'B', 'P', 'Y'], ['O', 'P', 'Y', 'B']] rfl ((calc_eq_fastP ['Y', 'O', 'P', 'B'] ['O', 'P', 'Y', 'B'] (by decide) (by decide)).trans (by decide)) (by decide) pe272 rfl nx272 (by decide) (by decide) (by decide)).trans ?_
  refine Eq.trans (step_lift ['O', 'P', 'Y', 'B'] (?_ : loopRun (honest ['Y', 'O', 'P', 'B']) 3 (some ['Y', 'O', 'P', 'B']) E272 [['B', 'G', 'O', 'R'], ['G', 'Y', 'R', 'P'], ['O', 'B', 'P', 'Y'], ['O', 'P', 'Y', 'B']] = (RunResult.solved ['Y', 'O', 'P', 'B'] 5, [['Y', 'O', 'P', 'B']]))) rfl
  exact loopRun_last ['Y', 'O', 'P', 'B'] 3 2 E272 [['B', 'G', 'O', 'R'], ['G', 'Y', 'R', 'P'], ['O', 'B', 'P', 'Y'], ['O', 'P', 'Y', 'B']] rfl rfl (by decide)

lemma rs274 : loopRun (honest ['Y', 'O', 'P', 'G']) 7 none S0 [] =
    (RunResult.solved ['Y', 'O', 'P', 'G'] 5, [['B', 'G', 'O', 'R'], ['G', 'Y', 'R', 'P'], ['R', 'B', 'P', 'Y'], ['O', 'P', 'G', 'Y'], ['Y', 'O', 'P', 'G']]) := by
  refine (loopRun_none' (honest ['Y', 'O', 'P', 'G']) 7 S0 []).trans ?_
  refine (loopRun_step ['Y', 'O', 'P', 'G'] 7 6 ['B', 'G', 'O', 'R'] S0 [] 2 0 E72 ['G', 'Y', 'R', 'P'] [['B', 'G', 'O', 'R']] rfl ((calc_eq_fastP ['Y', 'O', 'P', 'G'] ['B', 'G', 'O', 'R'] (by decide) (by decide)).trans (by decide)) (by decide) pe72 rfl nx72 (by decide) (by decide) (by decide)).trans ?_
  refine Eq.trans (step_lift ['B', 'G', 'O', 'R'] (?_ : loopRun (honest ['Y', 'O', 'P', 'G']) 6 (some ['G', 'Y', 'R', 'P']) E72 [['B', 'G', 'O', 'R']] = (RunResult.solved ['Y', 'O', 'P', 'G'] 5, [['G', 'Y', 'R', 'P'], ['R', 'B', 'P', 'Y'], ['O', 'P', 'G', 'Y'], ['Y', 'O', 'P', 'G']]))) rfl
  refine (loopRun_step ['Y', 'O', 'P', 'G'] 6 5 ['G', 'Y', 'R', 'P'] E72 [['B', 'G', 'O', 'R']] 3 0 E158 ['R', 'B', 'P', 'Y'] [['B', 'G', 'O', 'R'], ['G', 'Y', 'R', 'P']] rfl ((calc_eq_fastP ['Y', 'O', 'P', 'G'] ['G', 'Y', 'R', 'P'] (by decide) (by decide)).trans (by decide)) (by decide) pe158 rfl nx158 (by decide) (by decide) (by decide)).trans ?_
  refine Eq.trans (step_lift ['G', 'Y', 'R', 'P'] (?_ : loopRun (honest ['Y', 'O', 'P', 'G']) 5 (some ['R', 'B', 'P', 'Y']) E158 [['B', 'G', 'O', 'R'], ['G', 'Y', 'R', 'P']] = (RunResult.solved ['Y', 'O', 'P', 'G'] 5, [['R', 'B', 'P', 'Y'], ['O', 'P', 'G', 'Y'], ['Y', 'O', 'P', 'G']]))) rfl
  refine (loopRun_step ['Y', 'O', 'P', 'G'] 5 4 ['R', 'B', 'P', 'Y'] E158 [['B', 'G', 'O', 'R'], ['G', 'Y', 'R', 'P']] 1 1 E176 ['O', 'P', 'G', 'Y'] [['B', 'G', 'O', 'R'], ['G', 'Y', 'R', 'P'], ['R', 'B', 'P', 'Y']] rfl ((calc_eq_fastP ['Y', 'O', 'P', 'G'] ['R', 'B', 'P', 'Y'] (by decide) (by decide)).trans (by decide)) (by decide) pe176 rfl nx176 (by decide) (by decide) (by decide)).trans ?_
  refine Eq.trans (step_lift ['R', 'B', 'P', 'Y'] (?_ : loopRun (honest ['Y', 'O', 'P', 'G']) 4 (some ['O', 'P', 'G', 'Y']) E176 [['B', 'G', 'O', 'R'], ['G', 'Y', 'R', 'P'], ['R', 'B', 'P', 'Y']] = (RunResult.solved ['Y', 'O', 'P', 'G'] 5, [['O', 'P', 'G', 'Y'], ['Y', 'O', 'P', 'G']]))) rfl
  refine (loopRun_step ['Y', 'O', 'P', 'G'] 4 3 ['O', 'P', 'G', 'Y'] E176 [['B', 'G', 'O', 'R'], ['G', 'Y', 'R', 'P'], ['R', 'B', 'P', 'Y']] 4 0 [['Y', 'O', 'P', 'G']] ['Y', 'O', 'P', 'G'] [['B', 'G', 'O', 'R'], ['G', 'Y', 'R', 'P'], ['R', 'B', 'P', 'Y'], ['O', 'P', 'G', 'Y']] rfl ((calc_eq_fastP ['Y', 'O', 'P', 'G'] ['O', 'P', 'G', 'Y'] (by decide) (by decide)).trans (by decide)) (by decide) pe273 rfl (findNextGuess_singleton ['Y', 'O', 'P', 'G'] [['B', 'G', 'O', 'R'], ['G', 'Y', 'R', 'P'], ['R', 'B', 'P', 'Y'], ['O', 'P', 'G', 'Y']]) (by decide) (by decide) (by decide)).trans ?_
  refine Eq.trans (step_lift ['O', 'P', 'G', 'Y'] (?_ : loopRun (honest ['Y', 'O', 'P', 'G']) 3 (some ['Y', 'O', 'P', 'G']) [['Y', 'O', 'P', 'G']] [['B', 'G', 'O', 'R'], ['G', 'Y', 'R', 'P'], ['R', 'B', 'P', 'Y'], ['O', 'P', 'G', 'Y']] = (RunResult.solved ['Y', 'O', 'P', 'G'] 5, [['Y', 'O', 'P', 'G']]))) rfl
  exact loopRun_last ['Y', 'O', 'P', 'G'] 3 2 [['Y', 'O', 'P', 'G']] [['B', 'G', 'O', 'R'], ['G', 'Y', 'R', 'P'], ['R', 'B', 'P', 'Y'], ['O', 'P', 'G', 'Y']] rfl rfl (by decide)

lemma rs275 : loopRun (honest ['Y', 'O', 'P', 'R']) 7 none S0 [] =
    (RunResult.solved ['Y', 'O', 'P', 'R'] 5, [['B', 'G', 'O', 'R'], ['B', 'O', 'Y', 'P'], ['B', 'Y', 'P', 'G'], ['R', 'Y', 'O', 'P'], ['Y', 'O', 'P', 'R']]) := by
  refine (loopRun_none' (honest ['Y', 'O', 'P', 'R']) 7 S0 []).trans ?_
  refine (loopRun_step ['Y', 'O', 'P', 'R'] 7 6 ['B', 'G', 'O', 'R'] S0 [] 1 1 E20 ['B', 'O', 'Y', 'P'] [['B', 'G', 'O', 'R']] rfl ((calc_eq_fastP ['Y', 'O', 'P', 'R'] ['B', 'G', 'O', 'R'] (by decide) (by decide)).trans (by decide)) (by decide) pe20 rfl nx20 (by decide) (by decide) (by decide)).trans ?_
  refine Eq.trans (step_lift ['B', 'G', 'O', 'R'] (?_ : loopRun (honest ['Y', 'O', 'P', 'R']) 6 (some ['B', 'O', 'Y', 'P']) E20 [['B', 'G', 'O', 'R']] = (RunResult.solved ['Y', 'O', 'P', 'R'] 5, [['B', 'O', 'Y', 'P'], ['B', 'Y', 'P', 'G'], ['R', 'Y', 'O', 'P'], ['Y', 'O', 'P', 'R']]))) rfl
  refine (loopRun_step ['Y', 'O', 'P', 'R'] 6 5 ['B', 'O', 'Y', 'P'] E20 [['B', 'G', 'O', 'R']] 2 1 E35 ['B', 'Y', 'P', 'G'] [['B', 'G', 'O', 'R'], ['B', 'O', 'Y', 'P']] rfl ((calc_eq_fastP ['Y', 'O', 'P', 'R'] ['B', 'O', 'Y', 'P'] (by decide) (by decide)).trans (by decide)) (by decide) pe35 rfl nx35 (by decide) (by decide) (by decide)).trans ?_
  refine Eq.trans (step_lift ['B', 'O', 'Y', 'P'] (?_ : loopRun (honest ['Y', 'O', 'P', 'R']) 5 (some ['B', 'Y', 'P', 'G']) E35 [['B', 'G', 'O', 'R'], ['B', 'O', 'Y', 'P']] = (RunResult.solved ['Y', 'O', 'P', 'R'] 5, [['B', 'Y', 'P', 'G'], ['R', 'Y', 'O', 'P'], ['Y', 'O', 'P', 'R']]))) rfl
  refine (loopRun_step ['Y', 'O', 'P', 'R'] 5 4 ['B', 'Y', 'P', 'G'] E35 [['B', 'G', 'O', 'R'], ['B', 'O', 'Y', 'P']] 1 1 E224 ['R', 'Y', 'O', 'P'] [['B', 'G', 'O', 'R'], ['B', 'O', 'Y', 'P'], ['B', 'Y', 'P', 'G']] rfl ((calc_eq_fastP ['Y', 'O', 'P', 'R'] ['B', 'Y', 'P', 'G'] (by decide) (by decide)).trans (by decide)) (by decide) pe224 rfl nx224 (by decide) (by decide) (by decide)).trans ?_
  refine Eq.trans (step_lift ['B', 'Y', 'P', 'G'] (?_ : loopRun (honest ['Y', 'O', 'P', 'R']) 4 (some ['R', 'Y', 'O', 'P']) E224 [['B', 'G', 'O', 'R'], ['B', 'O', 'Y', 'P'], ['B', 'Y', 'P', 'G']] = (RunResult.solved ['Y', 'O', 'P', 'R'] 5, [['R', 'Y', 'O', 'P'], ['Y', 'O', 'P', 'R']]))) rfl
  refine (loopRun_step ['Y', 'O', 'P', 'R'] 4 3 ['R', 'Y', 'O', 'P'] E224 [['B', 'G', 'O', 'R'], ['B', 'O', 'Y', 'P'], ['B', 'Y', 'P', 'G']] 4 0 [['Y', 'O', 'P', 'R']] ['Y', 'O', 'P', 'R'] [['B', 'G', 'O', 'R'], ['B', 'O', 'Y', 'P'], ['B', 'Y', 'P', 'G'], ['R', 'Y', 'O', 'P']] rfl ((calc_eq_fastP ['Y', 'O', 'P', 'R'] ['R', 'Y', 'O', 'P'] (by decide) (by decide)).trans (by decide)) (by decide) pe274 rfl (findNextGuess_singleton ['Y', 'O', 'P', 'R'] [['B', 'G', 'O', 'R'], ['B', 'O', 'Y', 'P'], ['B', 'Y', 'P', 'G'], ['R', 'Y', 'O', 'P']]) (by decide) (by decide) (by decide)).trans ?_
  refine Eq.trans (step_lift ['R', 'Y', 'O', 'P'] (?_ : loopRun (honest ['Y', 'O', 'P', 'R']) 3 (some ['Y', 'O', 'P', 'R']) [['Y', 'O', 'P', 'R']] [['B', 'G', 'O', 'R'], ['B', 'O', 'Y', 'P'], ['B', 'Y', 'P', 'G'], ['R', 'Y', 'O', 'P']] = (RunResult.solved ['Y', 'O', 'P', 'R'] 5, [['Y', 'O', 'P', 'R']]))) rfl
  exact loopRun_last ['Y', 'O', 'P', 'R'] 3 2 [['Y', 'O', 'P', 'R']] [['B', 'G', 'O', 'R'], ['B', 'O', 'Y', 'P'], ['B', 'Y', 'P', 'G'], ['R', 'Y', 'O', 'P']] rfl rfl (by decide)

lemma rs276 : loopRun (honest ['Y', 'R', 'B', 'G']) 7 none S0 [] =
    (RunResult.solved ['Y', 'R', 'B', 'G'] 5, [['B', 'G', 'O', 'R'], ['G', 'O', 'R', 'Y'], ['O', 'B', 'Y', 'G'], ['R', 'Y', 'B', 'G'], ['Y', 'R', 'B', 'G']]) := by
  refine (loopRun_none' (honest ['Y', 'R', 'B', 'G']) 7 S0 []).trans ?_
  refine (loopRun_step ['Y', 'R', 'B', 'G'] 7 6 ['B', 'G', 'O', 'R'] S0 [] 3 0 E65 ['G', 'O', 'R', 'Y'] [['B', 'G', 'O', 'R']] rfl ((calc_eq_fastP ['Y', 'R', 'B', 'G'] ['B', 'G', 'O', 'R'] (by decide) (by decide)).trans (by decide)) (by decide) pe65 rfl nx65 (by decide) (by decide) (by decide)).trans ?_
  refine Eq.trans (step_lift ['B', 'G', 'O', 'R'] (?_ : loopRun (honest ['Y', 'R', 'B', 'G']) 6 (some ['G', 'O', 'R', 'Y']) E65 [['B', 'G', 'O', 'R']] = (RunResult.solved ['Y', 'R', 'B', 'G'] 5, [['G', 'O', 'R', 'Y'], ['O', 'B', 'Y', 'G'], ['R', 'Y', 'B', 'G'], ['Y', 'R', 'B', 'G']]))) rfl
  refine (loopRun_step ['Y', 'R', 'B', 'G'] 6 5 ['G', 'O', 'R', 'Y'] E65 [['B', 'G', 'O', 'R']] 3 0 E128 ['O', 'B', 'Y', 'G'] [['B', 'G', 'O', 'R'], ['G', 'O', 'R', 'Y']] rfl ((calc_eq_fastP ['Y', 'R', 'B', 'G'] ['G', 'O', 'R', 'Y'] (by decide) (by decide)).trans (by decide)) (by decide) pe128 rfl nx128 (by decide) (by decide) (by decide)).trans ?_
  refine Eq.trans (step_lift ['G', 'O', 'R', 'Y'] (?_ : loopRun (honest ['Y', 'R', 'B', 'G']) 5 (some ['O', 'B', 'Y', 'G']) E128 [['B', 'G', 'O', 'R'], ['G', 'O', 'R', 'Y']] = (RunResult.solved ['Y', 'R', 'B', 'G'] 5, [['O', 'B', 'Y', 'G'], ['R', 'Y', 'B', 'G'], ['Y', 'R', 'B', 'G']]))) rfl
  refine (loopRun_step ['Y', 'R', 'B', 'G'] 5 4 ['O', 'B', 'Y', 'G'] E128 [['B', 'G', 'O', 'R'], ['G', 'O', 'R', 'Y']] 2 1 E216 ['R', 'Y', 'B', 'G'] [['B', 'G', 'O', 'R'], ['G', 'O', 'R', 'Y'], ['O', 'B', 'Y', 'G']] rfl ((calc_eq_fastP ['Y', 'R', 'B', 'G'] ['O', 'B', 'Y', 'G'] (by decide) (by decide)).trans (by decide)) (by decide) pe216 rfl nx216 (by decide) (by decide) (by decide)).trans ?_
  refine Eq.trans (step_lift ['O', 'B', 'Y', 'G'] (?_ : loopRun (honest ['Y', 'R', 'B', 'G']) 4 (some ['R', 'Y', 'B', 'G']) E216 [['B', 'G', 'O', 'R'], ['G', 'O', 'R', 'Y'], ['O', 'B', 'Y', 'G']] = (RunResult.solved ['Y', 'R', 'B', 'G'] 5, [['R', 'Y', 'B', 'G'], ['Y', 'R', 'B', 'G']]))) rfl
  refine (loopRun_step ['Y', 'R', 'B', 'G'] 4 3 ['R', 'Y', 'B', 'G'] E216 [['B', 'G', 'O', 'R'], ['G', 'O', 'R', 'Y'], ['O', 'B', 'Y', 'G']] 2 2 [['Y', 'R', 'B', 'G']] ['Y', 'R', 'B', 'G'] [['B', 'G', 'O', 'R'], ['G', 'O', 'R', 'Y'], ['O', 'B', 'Y', 'G'], ['R', 'Y', 'B', 'G']] rfl ((calc_eq_fastP ['Y', 'R', 'B', 'G'] ['R', 'Y', 'B', 'G'] (by decide) (by decide)).trans (by decide)) (by decide) pe275 rfl (findNextGuess_singleton ['Y', 'R', 'B', 'G'] [['B', 'G', 'O', 'R'], ['G', 'O', 'R', 'Y'], ['O', 'B', 'Y', 'G'], ['R', 'Y', 'B', 'G']]) (by decide) (by decide) (by decide)).trans ?_
  refine Eq.trans (step_lift ['R', 'Y', 'B', 'G'] (?_ : loopRun (honest ['Y', 'R', 'B', 'G']) 3 (some ['Y', 'R', 'B', 'G']) [['Y', 'R', 'B', 'G']] [['B', 'G', 'O', 'R'], ['G', 'O', 'R', 'Y'], ['O', 'B', 'Y', 'G'], ['R', 'Y', 'B', 'G']] = (RunResult.solved ['Y', 'R', 'B', 'G'] 5, [['Y', 'R', 'B', 'G']]))) rfl
  exact loopRun_last ['Y', 'R', 'B', 'G'] 3 2 [['Y', 'R', 'B', 'G']] [['B', 'G', 'O', 'R'], ['G', 'O', 'R', 'Y'], ['O', 'B', 'Y', 'G'], ['R', 'Y', 'B', 'G']] rfl rfl (by decide)

lemma rs277 : loopRun (honest ['Y', 'R', 'B', 'O']) 7 none S0 [] =
    (RunResult.solved ['Y', 'R', 'B', 'O'] 5, [['B', 'G', 'O', 'R'], ['G', 'O', 'R', 'Y'], ['O', 'B', 'Y', 'G'], ['R', 'Y', 'B', 'O'], ['Y', 'R', 'B', 'O']]) := by
  refine (loopRun_none' (honest ['Y', 'R', 'B', 'O']) 7 S0 []).trans ?_
  refine (loopRun_step ['Y', 'R', 'B', 'O'] 7 6 ['B', 'G', 'O', 'R'] S0 [] 3 0 E65 ['G', 'O', 'R', 'Y'] [['B', 'G', 'O', 'R']] rfl ((calc_eq_fastP ['Y', 'R', 'B', 'O'] ['B', 'G', 'O', 'R'] (by decide) (by decide)).trans (by decide)) (by decide) pe65 rfl nx65 (by decide) (by decide) (by decide)).trans ?_
  refine Eq.trans (step_lift ['B', 'G', 'O', 'R'] (?_ : loopRun (honest ['Y', 'R', 'B', 'O']) 6 (some ['G', 'O', 'R', 'Y']) E65 [['B', 'G', 'O', 'R']] = (RunResult.solved ['Y', 'R', 'B', 'O'] 5, [['G', 'O', 'R', 'Y'], ['O', 'B', 'Y', 'G'], ['R', 'Y', 'B', 'O'], ['Y', 'R', 'B', 'O']]))) rfl
  refine (loopRun_step ['Y', 'R', 'B', 'O'] 6 5 ['G', 'O', 'R', 'Y'] E65 [['B', 'G', 'O', 'R']] 3 0 E128 ['O', 'B', 'Y', 'G'] [['B', 'G', 'O', 'R'], ['G', 'O', 'R', 'Y']] rfl ((calc_eq_fastP ['Y', 'R', 'B', 'O'] ['G', 'O', 'R', 'Y'] (by decide) (by decide)).trans (by decide)) (by decide) pe128 rfl nx128 (by decide) (by decide) (by decide)).trans ?_
  refine Eq.trans (step_lift ['G', 'O', 'R', 'Y'] (?_ : loopRun (honest ['Y', 'R', 'B', 'O']) 5 (some ['O', 'B', 'Y', 'G']) E128 [['B', 'G', 'O', 'R'], ['G', 'O', 'R', 'Y']] = (RunResult.solved ['Y', 'R', 'B', 'O'] 5, [['O', 'B', 'Y', 'G'], ['R', 'Y', 'B', 'O'], ['Y', 'R', 'B', 'O']]))) rfl
  refine (loopRun_step ['Y', 'R', 'B', 'O'] 5 4 ['O', 'B', 'Y', 'G'] E128 [['B', 'G', 'O', 'R'], ['G', 'O', 'R', 'Y']] 3 0 E217 ['R', 'Y', 'B', 'O'] [['B', 'G', 'O', 'R'], ['G', 'O', 'R', 'Y'], ['O', 'B', 'Y', 'G']] rfl ((calc_eq_fastP ['Y', 'R', 'B', 'O'] ['O', 'B', 'Y', 'G'] (by decide) (by decide)).trans (by decide)) (by decide) pe217 rfl nx217 (by decide) (by decide) (by decide)).trans ?_
  refine Eq.trans (step_lift ['O', 'B', 'Y', 'G'] (?_ : loopRun (honest ['Y', 'R', 'B', 'O']) 4 (some ['R', 'Y', 'B', 'O']) E217 [['B', 'G', 'O', 'R'], ['G', 'O', 'R', 'Y'], ['O', 'B', 'Y', 'G']] = (RunResult.solved ['Y', 'R', 'B', 'O'] 5, [['R', 'Y', 'B', 'O'], ['Y', 'R', 'B', 'O']]))) rfl
  refine (loopRun_step ['Y', 'R', 'B', 'O'] 4 3 ['R', 'Y', 'B', 'O'] E217 [['B', 'G', 'O', 'R'], ['G', 'O', 'R', 'Y'], ['O', 'B', 'Y', 'G']] 2 2 [['Y', 'R', 'B', 'O']] ['Y', 'R', 'B', 'O'] [['B', 'G', 'O', 'R'], ['G', 'O', 'R', 'Y'], ['O', 'B', 'Y', 'G'], ['R', 'Y', 'B', 'O']] rfl ((calc_eq_fastP ['Y', 'R', 'B', 'O'] ['R', 'Y', 'B', 'O'] (by decide) (by decide)).trans (by decide)) (by decide) pe276 rfl (findNextGuess_singleton ['Y', 'R', 'B', 'O'] [['B', 'G', 'O', 'R'], ['G', 'O', 'R', 'Y'], ['O', 'B', 'Y', 'G'], ['R', 'Y', 'B', 'O']]) (by decide) (by decide) (by decide)).trans ?_
  refine Eq.trans (step_lift ['R', 'Y', 'B', 'O'] (?_ : loopRun (honest ['Y', 'R', 'B', 'O']) 3 (some ['Y', 'R', 'B', 'O']) [['Y', 'R', 'B', 'O']] [['B', 'G', 'O', 'R'], ['G', 'O', 'R', 'Y'], ['O', 'B', 'Y', 'G'], ['R', 'Y', 'B', 'O']] = (RunResult.solved ['Y', 'R', 'B', 'O'] 5, [['Y', 'R', 'B', 'O']]))) rfl
  exact loopRun_last ['Y', 'R', 'B', 'O'] 3 2 [['Y', 'R', 'B', 'O']] [['B', 'G', 'O', 'R'], ['G', 'O', 'R', 'Y'], ['O', 'B', 'Y', 'G'], ['R', 'Y', 'B', 'O']] rfl rfl (by decide)

lemma rs278 : loopRun (honest ['Y', 'R', 'B', 'P']) 7 none S0 [] =
    (RunResult.solved ['Y', 'R', 'B', 'P'] 5, [['B', 'G', 'O', 'R'], ['G', 'Y', 'R', 'P'], ['G', 'B', 'P', 'Y'], ['Y', 'O', 'G', 'P'], ['Y', 'R', 'B', 'P']]) := by
  refine (loopRun_none' (honest ['Y', 'R', 'B', 'P']) 7 S0 []).trans ?_
  refine (loopRun_step ['Y', 'R', 'B', 'P'] 7 6 ['B', 'G', 'O', 'R'] S0 [] 2 0 E72 ['G', 'Y', 'R', 'P'] [['B', 'G', 'O', 'R']] rfl ((calc_eq_fastP ['Y', 'R', 'B', 'P'] ['B', 'G', 'O', 'R'] (by decide) (by decide)).trans (by decide)) (by decide) pe72 rfl nx72 (by decide) (by decide) (by decide)).trans ?_
  refine Eq.trans (step_lift ['B', 'G', 'O', 'R'] (?_ : loopRun (honest ['Y', 'R', 'B', 'P']) 6 (some ['G', 'Y', 'R', 'P']) E72 [['B', 'G', 'O', 'R']] = (RunResult.solved ['Y', 'R', 'B', 'P'] 5, [['G', 'Y', 'R', 'P'], ['G', 'B', 'P', 'Y'], ['Y', 'O', 'G', 'P'], ['Y', 'R', 'B', 'P']]))) rfl
  refine (loopRun_step ['Y', 'R', 'B', 'P'] 6 5 ['G', 'Y', 'R', 'P'] E72 [['B', 'G', 'O', 'R']] 2 1 E78 ['G', 'B', 'P', 'Y'] [['B', 'G', 'O', 'R'], ['G', 'Y', 'R', 'P']] rfl ((calc_eq_fastP ['Y', 'R', 'B', 'P'] ['G', 'Y', 'R', 'P'] (by decide) (by decide)).trans (by decide)) (by decide) pe78 rfl nx78 (by decide) (by decide) (by decide)).trans ?_
  refine Eq.trans (step_lift ['G', 'Y', 'R', 'P'] (?_ : loopRun (honest ['Y', 'R', 'B', 'P']) 5 (some ['G', 'B', 'P', 'Y']) E78 [['B', 'G', 'O', 'R'], ['G', 'Y', 'R', 'P']] = (RunResult.solved ['Y', 'R', 'B', 'P'] 5, [['G', 'B', 'P', 'Y'], ['Y', 'O', 'G', 'P'], ['Y', 'R', 'B', 'P']]))) rfl
  refine (loopRun_step ['Y', 'R', 'B', 'P'] 5 4 ['G', 'B', 'P', 'Y'] E78 [['B', 'G', 'O', 'R'], ['G', 'Y', 'R', 'P']] 3 0 E268 ['Y', 'O', 'G', 'P'] [['B', 'G', 'O', 'R'], ['G', 'Y', 'R', 'P'], ['G', 'B', 'P', 'Y']] rfl ((calc_eq_fastP ['Y', 'R', 'B', 'P'] ['G', 'B', 'P', 'Y'] (by decide) (by decide)).trans (by decide)) (by decide) pe268 rfl nx268 (by decide) (by decide) (by decide)).trans ?_
  refine Eq.trans (step_lift ['G', 'B', 'P', 'Y'] (?_ : loopRun (honest ['Y', 'R', 'B', 'P']) 4 (some ['Y', 'O', 'G', 'P']) E268 [['B', 'G', 'O', 'R'], ['G', 'Y', 'R', 'P'], ['G', 'B', 'P', 'Y']] = (RunResult.solved ['Y', 'R', 'B', 'P'] 5, [['Y', 'O', 'G', 'P'], ['Y', 'R', 'B', 'P']]))) rfl
  refine (loopRun_step ['Y', 'R', 'B', 'P'] 4 3 ['Y', 'O', 'G', 'P'] E268 [['B', 'G', 'O', 'R'], ['G', 'Y', 'R', 'P'], ['G', 'B', 'P', 'Y']] 0 2 [['Y', 'R', 'B', 'P']] ['Y', 'R', 'B', 'P'] [['B', 'G', 'O', 'R'], ['G', 'Y', 'R', 'P'], ['G', 'B', 'P', 'Y'], ['Y', 'O', 'G', 'P']] rfl ((calc_eq_fastP ['Y', 'R', 'B', 'P'] ['Y', 'O', 'G', 'P'] (by decide) (by decide)).trans (by decide)) (by decide) pe277 rfl (findNextGuess_singleton ['Y', 'R', 'B', 'P'] [['B', 'G', 'O', 'R'], ['G', 'Y', 'R', 'P'], ['G', 'B', 'P', 'Y'], ['Y', 'O', 'G', 'P']]) (by decide) (by decide) (by decide)).trans ?_
  refine Eq.trans (step_lift ['Y', 'O', 'G', 'P'] (?_ : loopRun (honest ['Y', 'R', 'B', 'P']) 3 (some ['Y', 'R', 'B', 'P']) [['Y', 'R', 'B', 'P']] [['B', 'G', 'O', 'R'], ['G', 'Y', 'R', 'P'], ['G', 'B', 'P', 'Y'], ['Y', 'O', 'G', 'P']] = (RunResult.solved ['Y', 'R', 'B', 'P'] 5, [['Y', 'R', 'B', 'P']]))) rfl
  exact loopRun_last ['Y', 'R', 'B', 'P'] 3 2 [['Y', 'R', 'B', 'P']] [['B', 'G', 'O', 'R'], ['G', 'Y', 'R', 'P'], ['G', 'B', 'P', 'Y'], ['Y', 'O', 'G', 'P']] rfl rfl (by decide)

lemma rs279 : loopRun (honest ['Y', 'R', 'G', 'B']) 7 none S0 [] =
    (RunResult.solved ['Y', 'R', 'G', 'B'] 5, [['B', 'G', 'O', 'R'], ['G', 'O', 'R', 'Y'], ['O', 'B', 'Y', 'G'], ['R', 'Y', 'B', 'O'], ['Y', 'R', 'G', 'B']]) := by
  refine (loopRun_none' (honest ['Y', 'R', 'G', 'B']) 7 S0 []).trans ?_
  refine (loopRun_step ['Y', 'R', 'G', 'B'] 7 6 ['B', 'G', 'O', 'R'] S0 [] 3 0 E65 ['G', 'O', 'R', 'Y'] [['B', 'G', 'O', 'R']] rfl ((calc_eq_fastP ['Y', 'R', 'G', 'B'] ['B', 'G', 'O', 'R'] (by decide) (by decide)).trans (by decide)) (by decide) pe65 rfl nx65 (by decide) (by decide) (by decide)).trans ?_
  refine Eq.trans (step_lift ['B', 'G', 'O', 'R'] (?_ : loopRun (honest ['Y', 'R', 'G', 'B']) 6 (some ['G', 'O', 'R', 'Y']) E65 [['B', 'G', 'O', 'R']] = (RunResult.solved ['Y', 'R', 'G', 'B'] 5, [['G', 'O', 'R', 'Y'], ['O', 'B', 'Y', 'G'], ['R', 'Y', 'B', 'O'], ['Y', 'R', 'G', 'B']]))) rfl
  refine (loopRun_step ['Y', 'R', 'G', 'B'] 6 5 ['G', 'O', 'R', 'Y'] E65 [['B', 'G', 'O', 'R']] 3 0 E128 ['O', 'B', 'Y', 'G'] [['B', 'G', 'O', 'R'], ['G', 'O', 'R', 'Y']] rfl ((calc_eq_fastP ['Y', 'R', 'G', 'B'] ['G', 'O', 'R', 'Y'] (by decide) (by decide)).trans (by decide)) (by decide) pe128 rfl nx128 (by decide) (by decide) (by decide)).trans ?_
  refine Eq.trans (step_lift ['G', 'O', 'R', 'Y'] (?_ : loopRun (honest ['Y', 'R', 'G', 'B']) 5 (some ['O', 'B', 'Y', 'G']) E128 [['B', 'G', 'O', 'R'], ['G', 'O', 'R', 'Y']] = (RunResult.solved ['Y', 'R', 'G', 'B'] 5, [['O', 'B', 'Y', 'G'], ['R', 'Y', 'B', 'O'], ['Y', 'R', 'G', 'B']]))) rfl
  refine (loopRun_step ['Y', 'R', 'G', 'B'] 5 4 ['O', 'B', 'Y', 'G'] E128 [['B', 'G', 'O', 'R'], ['G', 'O', 'R', 'Y']] 3 0 E217 ['R', 'Y', 'B', 'O'] [['B', 'G', 'O', 'R'], ['G', 'O', 'R', 'Y'], ['O', 'B', 'Y', 'G']] rfl ((calc_eq_fastP ['Y', 'R', 'G', 'B'] ['O', 'B', 'Y', 'G'] (by decide) (by decide)).trans (by decide)) (by decide) pe217 rfl nx217 (by decide) (by decide) (by decide)).trans ?_
  refine Eq.trans (step_lift ['O', 'B', 'Y', 'G'] (?_ : loopRun (honest ['Y', 'R', 'G', 'B']) 4 (some ['R', 'Y', 'B', 'O']) E217 [['B', 'G', 'O', 'R'], ['G', 'O', 'R', 'Y'], ['O', 'B', 'Y', 'G']] = (RunResult.solved ['Y', 'R', 'G', 'B'] 5, [['R', 'Y', 'B', 'O'], ['Y', 'R', 'G', 'B']]))) rfl
  refine (loopRun_step ['Y', 'R', 'G', 'B'] 4 3 ['R', 'Y', 'B', 'O'] E217 [['B', 'G', 'O', 'R'], ['G', 'O', 'R', 'Y'], ['O', 'B', 'Y', 'G']] 3 0 [['Y', 'R', 'G', 'B']] ['Y', 'R', 'G', 'B'] [['B', 'G', 'O', 'R'], ['G', 'O', 'R', 'Y'], ['O', 'B', 'Y', 'G'], ['R', 'Y', 'B', 'O']] rfl ((calc_eq_fastP ['Y', 'R', 'G', 'B'] ['R', 'Y', 'B', 'O'] (by decide) (by decide)).trans (by decide)) (by decide) pe278 rfl (findNextGuess_singleton ['Y', 'R', 'G', 'B'] [['B', 'G', 'O', 'R'], ['G', 'O', 'R', 'Y'], ['O', 'B', 'Y', 'G'], ['R', 'Y', 'B', 'O']]) (by decide) (by decide) (by decide)).trans ?_
  refine Eq.trans (step_lift ['R', 'Y', 'B', 'O'] (?_ : loopRun (honest ['Y', 'R', 'G', 'B']) 3 (some ['Y', 'R', 'G', 'B']) [['Y', 'R', 'G', 'B']] [['B', 'G', 'O', 'R'], ['G', 'O', 'R', 'Y'], ['O', 'B', 'Y', 'G'], ['R', 'Y', 'B', 'O']] = (RunResult.solved ['Y', 'R', 'G', 'B'] 5, [['Y', 'R', 'G', 'B']]))) rfl
  exact loopRun_last ['Y', 'R', 'G', 'B'] 3 2 [['Y', 'R', 'G', 'B']] [['B', 'G', 'O', 'R'], ['G', 'O', 'R', 'Y'], ['O', 'B', 'Y', 'G'], ['R', 'Y', 'B', 'O']] rfl rfl (by decide)

lemma rs280 : loopRun (honest ['Y', 'R', 'G', 'O']) 7 none S0 [] =
    (RunResult.solved ['Y', 'R', 'G', 'O'] 4, [['B', 'G', 'O', 'R'], ['G', 'O', 'R', 'Y'], ['O', 'R', 'Y', 'G'], ['Y', 'R', 'G', 'O']]) := by
  refine (loopRun_none' (honest ['Y', 'R', 'G', 'O']) 7 S0 []).trans ?_
  refine (loopRun_step ['Y', 'R', 'G', 'O'] 7 6 ['B', 'G', 'O', 'R'] S0 [] 3 0 E65 ['G', 'O', 'R', 'Y'] [['B', 'G', 'O', 'R']] rfl ((calc_eq_fastP ['Y', 'R', 'G', 'O'] ['B', 'G', 'O', 'R'] (by decide) (by decide)).trans (by decide)) (by decide) pe65 rfl nx65 (by decide) (by decide) (by decide)).trans ?_
  refine Eq.trans (step_lift ['B', 'G', 'O', 'R'] (?_ : loopRun (honest ['Y', 'R', 'G', 'O']) 6 (some ['G', 'O', 'R', 'Y']) E65 [['B', 'G', 'O', 'R']] = (RunResult.solved ['Y', 'R', 'G', 'O'] 4, [['G', 'O', 'R', 'Y'], ['O', 'R', 'Y', 'G'], ['Y', 'R', 'G', 'O']]))) rfl
  refine (loopRun_step ['Y', 'R', 'G', 'O'] 6 5 ['G', 'O', 'R', 'Y'] E65 [['B', 'G', 'O', 'R']] 4 0 E154 ['O', 'R', 'Y', 'G'] [['B', 'G', 'O', 'R'], ['G', 'O', 'R', 'Y']] rfl ((calc_eq_fastP ['Y', 'R', 'G', 'O'] ['G', 'O', 'R', 'Y'] (by decide) (by decide)).trans (by decide)) (by decide) pe154 rfl nx154 (by decide) (by decide) (by decide)).trans ?_
  refine Eq.trans (step_lift ['G', 'O', 'R', 'Y'] (?_ : loopRun (honest ['Y', 'R', 'G', 'O']) 5 (some ['O', 'R', 'Y', 'G']) E154 [['B', 'G', 'O', 'R'], ['G', 'O', 'R', 'Y']] = (RunResult.solved ['Y', 'R', 'G', 'O'] 4, [['O', 'R', 'Y', 'G'], ['Y', 'R', 'G', 'O']]))) rfl
  refine (loopRun_step ['Y', 'R', 'G', 'O'] 5 4 ['O', 'R', 'Y', 'G'] E154 [['B', 'G', 'O', 'R'], ['G', 'O', 'R', 'Y']] 3 1 [['Y', 'R', 'G', 'O']] ['Y', 'R', 'G', 'O'] [['B', 'G', 'O', 'R'], ['G', 'O', 'R', 'Y'], ['O', 'R', 'Y', 'G']] rfl ((calc_eq_fastP ['Y', 'R', 'G', 'O'] ['O', 'R', 'Y', 'G'] (by decide) (by decide)).trans (by decide)) (by decide) pe279 rfl (findNextGuess_singleton ['Y', 'R', 'G', 'O'] [['B', 'G', 'O', 'R'], ['G', 'O', 'R', 'Y'], ['O', 'R', 'Y', 'G']]) (by decide) (by decide) (by decide)).trans ?_
  refine Eq.trans (step_lift ['O', 'R', 'Y', 'G'] (?_ : loopRun (honest ['Y', 'R', 'G', 'O']) 4 (some ['Y', 'R', 'G', 'O']) [['Y', 'R', 'G', 'O']] [['B', 'G', 'O', 'R'], ['G', 'O', 'R', 'Y'], ['O', 'R', 'Y', 'G']] = (RunResult.solved ['Y', 'R', 'G', 'O'] 4, [['Y', 'R', 'G', 'O']]))) rfl
  exact loopRun_last ['Y', 'R', 'G', 'O'] 4 3 [['Y', 'R', 'G', 'O']] [['B', 'G', 'O', 'R'], ['G', 'O', 'R', 'Y'], ['O', 'R', 'Y', 'G']] rfl rfl (by decide)

lemma rs281 : loopRun (honest ['Y', 'R', 'G', 'P']) 7 none S0 [] =
    (RunResult.solved ['Y', 'R', 'G', 'P'] 5, [['B', 'G', 'O', 'R'], ['G', 'Y', 'R', 'P'], ['G', 'R', 'P', 'Y'], ['R', 'Y', 'P', 'G'], ['Y', 'R', 'G', 'P']]) := by
  refine (loopRun_none' (honest ['Y', 'R', 'G', 'P']) 7 S0 []).trans ?_
  refine (loopRun_step ['Y', 'R', 'G', 'P'] 7 6 ['B', 'G', 'O', 'R'] S0 [] 2 0 E72 ['G', 'Y', 'R', 'P'] [['B', 'G', 'O', 'R']] rfl ((calc_eq_fastP ['Y', 'R', 'G', 'P'] ['B', 'G', 'O', 'R'] (by decide) (by decide)).trans (by decide)) (by decide) pe72 rfl nx72 (by decide) (by decide) (by decide)).trans ?_
  refine Eq.trans (step_lift ['B', 'G', 'O', 'R'] (?_ : loopRun (honest ['Y', 'R', 'G', 'P']) 6 (some ['G', 'Y', 'R', 'P']) E72 [['B', 'G', 'O', 'R']] = (RunResult.solved ['Y', 'R', 'G', 'P'] 5, [['G', 'Y', 'R', 'P'], ['G', 'R', 'P', 'Y'], ['R', 'Y', 'P', 'G'], ['Y', 'R', 'G', 'P']]))) rfl
  refine (loopRun_step ['Y', 'R', 'G', 'P'] 6 5 ['G', 'Y', 'R', 'P'] E72 [['B', 'G', 'O', 'R']] 3 1 E99 ['G', 'R', 'P', 'Y'] [['B', 'G', 'O', 'R'], ['G', 'Y', 'R', 'P']] rfl ((calc_eq_fastP ['Y', 'R', 'G', 'P'] ['G', 'Y', 'R', 'P'] (by decide) (by decide)).trans (by decide)) (by decide) pe99 rfl nx99 (by decide) (by decide) (by decide)).trans ?_
  refine Eq.trans (step_lift ['G', 'Y', 'R', 'P'] (?_ : loopRun (honest ['Y', 'R', 'G', 'P']) 5 (some ['G', 'R', 'P', 'Y']) E99 [['B', 'G', 'O', 'R'], ['G', 'Y', 'R', 'P']] = (RunResult.solved ['Y', 'R', 'G', 'P'] 5, [['G', 'R', 'P', 'Y'], ['R', 'Y', 'P', 'G'], ['Y', 'R', 'G', 'P']]))) rfl
  refine (loopRun_step ['Y', 'R', 'G', 'P'] 5 4 ['G', 'R', 'P', 'Y'] E99 [['B', 'G', 'O', 'R'], ['G', 'Y', 'R', 'P']] 3 1 E226 ['R', 'Y', 'P', 'G'] [['B', 'G', 'O', 'R'], ['G', 'Y', 'R', 'P'], ['G', 'R', 'P', 'Y']] rfl ((calc_eq_fastP ['Y', 'R', 'G', 'P'] ['G', 'R', 'P', 'Y'] (by decide) (by decide)).trans (by decide)) (by decide) pe226 rfl nx226 (by decide) (by decide) (by decide)).trans ?_
  refine Eq.trans (step_lift ['G', 'R', 'P', 'Y'] (?_ : loopRun (honest ['Y', 'R', 'G', 'P']) 4 (some ['R', 'Y', 'P', 'G']) E226 [['B', 'G', 'O', 'R'], ['G', 'Y', 'R', 'P'], ['G', 'R', 'P', 'Y']] = (RunResult.solved ['Y', 'R', 'G', 'P'] 5, [['R', 'Y', 'P', 'G'], ['Y', 'R', 'G', 'P']]))) rfl
  refine (loopRun_step ['Y', 'R', 'G', 'P'] 4 3 ['R', 'Y', 'P', 'G'] E226 [['B', 'G', 'O', 'R'], ['G', 'Y', 'R', 'P'], ['G', 'R', 'P', 'Y']] 4 0 [['Y', 'R', 'G', 'P']] ['Y', 'R', 'G', 'P'] [['B', 'G', 'O', 'R'], ['G', 'Y', 'R', 'P'], ['G', 'R', 'P', 'Y'], ['R', 'Y', 'P', 'G']] rfl ((calc_eq_fastP ['Y', 'R', 'G', 'P'] ['R', 'Y', 'P', 'G'] (by decide) (by decide)).trans (by decide)) (by decide) pe280 rfl (findNextGuess_singleton ['Y', 'R', 'G', 'P'] [['B', 'G', 'O', 'R'], ['G', 'Y', 'R', 'P'], ['G', 'R', 'P', 'Y'], ['R', 'Y', 'P', 'G']]) (by decide) (by decide) (by decide)).trans ?_
  refine Eq.trans (step_lift ['R', 'Y', 'P', 'G'] (?_ : loopRun (honest ['Y', 'R', 'G', 'P']) 3 (some ['Y', 'R', 'G', 'P']) [['Y', 'R', 'G', 'P']] [['B', 'G', 'O', 'R'], ['G', 'Y', 'R', 'P'], ['G', 'R', 'P', 'Y'], ['R', 'Y', 'P', 'G']] = (RunResult.solved ['Y', 'R', 'G', 'P'] 5, [['Y', 'R', 'G', 'P']]))) rfl
  exact loopRun_last ['Y', 'R', 'G', 'P'] 3 2 [['Y', 'R', 'G', 'P']] [['B', 'G', 'O', 'R'], ['G', 'Y', 'R', 'P'], ['G', 'R', 'P', 'Y'], ['R', 'Y', 'P', 'G']] rfl rfl (by decide)

lemma rs282 : loopRun (honest ['Y', 'R', 'O', 'B']) 7 none S0 [] =
    (RunResult.solved ['Y', 'R', 'O', 'B'] 4, [['B', 'G', 'O', 'R'], ['B', 'O', 'R', 'Y'], ['O', 'Y', 'B', 'R'], ['Y', 'R', 'O', 'B']]) := by
  refine (loopRun_none' (honest ['Y', 'R', 'O', 'B']) 7 S0 []).trans ?_
  refine (loopRun_step ['Y', 'R', 'O', 'B'] 7 6 ['B', 'G', 'O', 'R'] S0 [] 2 1 E13 ['B', 'O', 'R', 'Y'] [['B', 'G', 'O', 'R']] rfl ((calc_eq_fastP ['Y', 'R', 'O', 'B'] ['B', 'G', 'O', 'R'] (by decide) (by decide)).trans (by decide)) (by decide) pe13 rfl nx13 (by decide) (by decide) (by decide)).trans ?_
  refine Eq.trans (step_lift ['B', 'G', 'O', 'R'] (?_ : loopRun (honest ['Y', 'R', 'O', 'B']) 6 (some ['B', 'O', 'R', 'Y']) E13 [['B', 'G', 'O', 'R']] = (RunResult.solved ['Y', 'R', 'O', 'B'] 4, [['B', 'O', 'R', 'Y'], ['O', 'Y', 'B', 'R'], ['Y', 'R', 'O', 'B']]))) rfl
  refine (loopRun_step ['Y', 'R', 'O', 'B'] 6 5 ['B', 'O', 'R', 'Y'] E13 [['B', 'G', 'O', 'R']] 4 0 E129 ['O', 'Y', 'B', 'R'] [['B', 'G', 'O', 'R'], ['B', 'O', 'R', 'Y']] rfl ((calc_eq_fastP ['Y', 'R', 'O', 'B'] ['B', 'O', 'R', 'Y'] (by decide) (by decide)).trans (by decide)) (by decide) pe129 rfl nx129 (by decide) (by decide) (by decide)).trans ?_
  refine Eq.trans (step_lift ['B', 'O', 'R', 'Y'] (?_ : loopRun (honest ['Y', 'R', 'O', 'B']) 5 (some ['O', 'Y', 'B', 'R']) E129 [['B', 'G', 'O', 'R'], ['B', 'O', 'R', 'Y']] = (RunResult.solved ['Y', 'R', 'O', 'B'] 4, [['O', 'Y', 'B', 'R'], ['Y', 'R', 'O', 'B']]))) rfl
  refine (loopRun_step ['Y', 'R', 'O', 'B'] 5 4 ['O', 'Y', 'B', 'R'] E129 [['B', 'G', 'O', 'R'], ['B', 'O', 'R', 'Y']] 4 0 [['Y', 'R', 'O', 'B']] ['Y', 'R', 'O', 'B'] [['B', 'G', 'O', 'R'], ['B', 'O', 'R', 'Y'], ['O', 'Y', 'B', 'R']] rfl ((calc_eq_fastP ['Y', 'R', 'O', 'B'] ['O', 'Y', 'B', 'R'] (by decide) (by decide)).trans (by decide)) (by decide) pe281 rfl (findNextGuess_singleton ['Y', 'R', 'O', 'B'] [['B', 'G', 'O', 'R'], ['B', 'O', 'R', 'Y'], ['O', 'Y', 'B', 'R']]) (by decide) (by decide) (by decide)).trans ?_
  refine Eq.trans (step_lift ['O', 'Y', 'B', 'R'] (?_ : loopRun (honest ['Y', 'R', 'O', 'B']) 4 (some ['Y', 'R', 'O', 'B']) [['Y', 'R', 'O', 'B']] [['B', 'G', 'O', 'R'], ['B', 'O', 'R', 'Y'], ['O', 'Y', 'B', 'R']] = (RunResult.solved ['Y', 'R', 'O', 'B'] 4, [['Y', 'R', 'O', 'B']]))) rfl
  exact loopRun_last ['Y', 'R', 'O', 'B'] 4 3 [['Y', 'R', 'O', 'B']] [['B', 'G', 'O', 'R'], ['B', 'O', 'R', 'Y'], ['O', 'Y', 'B', 'R']] rfl rfl (by decide)

lemma rs283 : loopRun (honest ['Y', 'R', 'O', 'G']) 7 none S0 [] =
    (RunResult.solved ['Y', 'R', 'O', 'G'] 5, [['B', 'G', 'O', 'R'], ['B', 'O', 'R', 'Y'], ['O', 'Y', 'G', 'R'], ['R', 'G', 'Y', 'O'], ['Y', 'R', 'O', 'G']]) := by
  refine (loopRun_none' (honest ['Y', 'R', 'O', 'G']) 7 S0 []).trans ?_
  refine (loopRun_step ['Y', 'R', 'O', 'G'] 7 6 ['B', 'G', 'O', 'R'] S0 [] 2 1 E13 ['B', 'O', 'R', 'Y'] [['B', 'G', 'O', 'R']] rfl ((calc_eq_fastP ['Y', 'R', 'O', 'G'] ['B', 'G', 'O', 'R'] (by decide) (by decide)).trans (by decide)) (by decide) pe13 rfl nx13 (by decide) (by decide) (by decide)).trans ?_
  refine Eq.trans (step_lift ['B', 'G', 'O', 'R'] (?_ : loopRun (honest ['Y', 'R', 'O', 'G']) 6 (some ['B', 'O', 'R', 'Y']) E13 [['B', 'G', 'O', 'R']] = (RunResult.solved ['Y', 'R', 'O', 'G'] 5, [['B', 'O', 'R', 'Y'], ['O', 'Y', 'G', 'R'], ['R', 'G', 'Y', 'O'], ['Y', 'R', 'O', 'G']]))) rfl
  refine (loopRun_step ['Y', 'R', 'O', 'G'] 6 5 ['B', 'O', 'R', 'Y'] E13 [['B', 'G', 'O', 'R']] 3 0 E69 ['O', 'Y', 'G', 'R'] [['B', 'G', 'O', 'R'], ['B', 'O', 'R', 'Y']] rfl ((calc_eq_fastP ['Y', 'R', 'O', 'G'] ['B', 'O', 'R', 'Y'] (by decide) (by decide)).trans (by decide)) (by decide) pe69 rfl nx69 (by decide) (by decide) (by decide)).trans ?_
  refine Eq.trans (step_lift ['B', 'O', 'R', 'Y'] (?_ : loopRun (honest ['Y', 'R', 'O', 'G']) 5 (some ['O', 'Y', 'G', 'R']) E69 [['B', 'G', 'O', 'R'], ['B', 'O', 'R', 'Y']] = (RunResult.solved ['Y', 'R', 'O', 'G'] 5, [['O', 'Y', 'G', 'R'], ['R', 'G', 'Y', 'O'], ['Y', 'R', 'O', 'G']]))) rfl
  refine (loopRun_step ['Y', 'R', 'O', 'G'] 5 4 ['O', 'Y', 'G', 'R'] E69 [['B', 'G', 'O', 'R'], ['B', 'O', 'R', 'Y']] 4 0 E200 ['R', 'G', 'Y', 'O'] [['B', 'G', 'O', 'R'], ['B', 'O', 'R', 'Y'], ['O', 'Y', 'G', 'R']] rfl ((calc_eq_fastP ['Y', 'R', 'O', 'G'] ['O', 'Y', 'G', 'R'] (by decide) (by decide)).trans (by decide)) (by decide) pe200 rfl nx200 (by decide) (by decide) (by decide)).trans ?_
  refine Eq.trans (step_lift ['O', 'Y', 'G', 'R'] (?_ : loopRun (honest ['Y', 'R', 'O', 'G']) 4 (some ['R', 'G', 'Y', 'O']) E200 [['B', 'G', 'O', 'R'], ['B', 'O', 'R', 'Y'], ['O', 'Y', 'G', 'R']] = (RunResult.solved ['Y', 'R', 'O', 'G'] 5, [['R', 'G', 'Y', 'O'], ['Y', 'R', 'O', 'G']]))) rfl
  refine (loopRun_step ['Y', 'R', 'O', 'G'] 4 3 ['R', 'G', 'Y', 'O'] E200 [['B', 'G', 'O', 'R'], ['B', 'O', 'R', 'Y'], ['O', 'Y', 'G', 'R']] 4 0 [['Y', 'R', 'O', 'G']] ['Y', 'R', 'O', 'G'] [['B', 'G', 'O', 'R'], ['B', 'O', 'R', 'Y'], ['O', 'Y', 'G', 'R'], ['R', 'G', 'Y', 'O']] rfl ((calc_eq_fastP ['Y', 'R', 'O', 'G'] ['R', 'G', 'Y', 'O'] (by decide) (by decide)).trans (by decide)) (by decide) pe282 rfl (findNextGuess_singleton ['Y', 'R', 'O', 'G'] [['B', 'G', 'O', 'R'], ['B', 'O', 'R', 'Y'], ['O', 'Y', 'G', 'R'], ['R', 'G', 'Y', 'O']]) (by decide) (by decide) (by decide)).trans ?_
  refine Eq.trans (step_lift ['R', 'G', 'Y', 'O'] (?_ : loopRun (honest ['Y', 'R', 'O', 'G']) 3 (some ['Y', 'R', 'O', 'G']) [['Y', 'R', 'O', 'G']] [['B', 'G', 'O', 'R'], ['B', 'O', 'R', 'Y'], ['O', 'Y', 'G', 'R'], ['R', 'G', 'Y', 'O']] = (RunResult.solved ['Y', 'R', 'O', 'G'] 5, [['Y', 'R', 'O', 'G']]))) rfl
  exact loopRun_last ['Y', 'R', 'O', 'G'] 3 2 [['Y', 'R', 'O', 'G']] [['B', 'G', 'O', 'R'], ['B', 'O', 'R', 'Y'], ['O', 'Y', 'G', 'R'], ['R', 'G', 'Y', 'O']] rfl rfl (by decide)

lemma rs284 : loopRun (honest ['Y', 'R', 'O', 'P']) 7 none S0 [] =
    (RunResult.solved ['Y', 'R', 'O', 'P'] 5, [['B', 'G', 'O', 'R'], ['B', 'O', 'Y', 'P'], ['B', 'Y', 'P', 'G'], ['O', 'P', 'Y', 'R'], ['Y', 'R', 'O', 'P']]) := by
  refine (loopRun_none' (honest ['Y', 'R', 'O', 'P']) 7 S0 []).trans ?_
  refine (loopRun_step ['Y', 'R', 'O', 'P'] 7 6 ['B', 'G', 'O', 'R'] S0 [] 1 1 E20 ['B', 'O', 'Y', 'P'] [['B', 'G', 'O', 'R']] rfl ((calc_eq_fastP ['Y', 'R', 'O', 'P'] ['B', 'G', 'O', 'R'] (by decide) (by decide)).trans (by decide)) (by decide) pe20 rfl nx20 (by decide) (by decide) (by decide)).trans ?_
  refine Eq.trans (step_lift ['B', 'G', 'O', 'R'] (?_ : loopRun (honest ['Y', 'R', 'O', 'P']) 6 (some ['B', 'O', 'Y', 'P']) E20 [['B', 'G', 'O', 'R']] = (RunResult.solved ['Y', 'R', 'O', 'P'] 5, [['B', 'O', 'Y', 'P'], ['B', 'Y', 'P', 'G'], ['O', 'P', 'Y', 'R'], ['Y', 'R', 'O', 'P']]))) rfl
  refine (loopRun_step ['Y', 'R', 'O', 'P'] 6 5 ['B', 'O', 'Y', 'P'] E20 [['B', 'G', 'O', 'R']] 2 1 E35 ['B', 'Y', 'P', 'G'] [['B', 'G', 'O', 'R'], ['B', 'O', 'Y', 'P']] rfl ((calc_eq_fastP ['Y', 'R', 'O', 'P'] ['B', 'O', 'Y', 'P'] (by decide) (by decide)).trans (by decide)) (by decide) pe35 rfl nx35 (by decide) (by decide) (by decide)).trans ?_
  refine Eq.trans (step_lift ['B', 'O', 'Y', 'P'] (?_ : loopRun (honest ['Y', 'R', 'O', 'P']) 5 (some ['B', 'Y', 'P', 'G']) E35 [['B', 'G', 'O', 'R'], ['B', 'O', 'Y', 'P']] = (RunResult.solved ['Y', 'R', 'O', 'P'] 5, [['B', 'Y', 'P', 'G'], ['O', 'P', 'Y', 'R'], ['Y', 'R', 'O', 'P']]))) rfl
  refine (loopRun_step ['Y', 'R', 'O', 'P'] 5 4 ['B', 'Y', 'P', 'G'] E35 [['B', 'G', 'O', 'R'], ['B', 'O', 'Y', 'P']] 2 0 E182 ['O', 'P', 'Y', 'R'] [['B', 'G', 'O', 'R'], ['B', 'O', 'Y', 'P'], ['B', 'Y', 'P', 'G']] rfl ((calc_eq_fastP ['Y', 'R', 'O', 'P'] ['B', 'Y', 'P', 'G'] (by decide) (by decide)).trans (by decide)) (by decide) pe182 rfl nx182 (by decide) (by decide) (by decide)).trans ?_
  refine Eq.trans (step_lift ['B', 'Y', 'P', 'G'] (?_ : loopRun (honest ['Y', 'R', 'O', 'P']) 4 (some ['O', 'P', 'Y', 'R']) E182 [['B', 'G', 'O', 'R'], ['B', 'O', 'Y', 'P'], ['B', 'Y', 'P', 'G']] = (RunResult.solved ['Y', 'R', 'O', 'P'] 5, [['O', 'P', 'Y', 'R'], ['Y', 'R', 'O', 'P']]))) rfl
  refine (loopRun_step ['Y', 'R', 'O', 'P'] 4 3 ['O', 'P', 'Y', 'R'] E182 [['B', 'G', 'O', 'R'], ['B', 'O', 'Y', 'P'], ['B', 'Y', 'P', 'G']] 4 0 [['Y', 'R', 'O', 'P']] ['Y', 'R', 'O', 'P'] [['B', 'G', 'O', 'R'], ['B', 'O', 'Y', 'P'], ['B', 'Y', 'P', 'G'], ['O', 'P', 'Y', 'R']] rfl ((calc_eq_fastP ['Y', 'R', 'O', 'P'] ['O', 'P', 'Y', 'R'] (by decide) (by decide)).trans (by decide)) (by decide) pe283 rfl (findNextGuess_singleton ['Y', 'R', 'O', 'P'] [['B', 'G', 'O', 'R'], ['B', 'O', 'Y', 'P'], ['B', 'Y', 'P', 'G'], ['O', 'P', 'Y', 'R']]) (by decide) (by decide) (by decide)).trans ?_
  refine Eq.trans (step_lift ['O', 'P', 'Y', 'R'] (?_ : loopRun (honest ['Y', 'R', 'O', 'P']) 3 (some ['Y', 'R', 'O', 'P']) [['Y', 'R', 'O', 'P']] [['B', 'G', 'O', 'R'], ['B', 'O', 'Y', 'P'], ['B', 'Y', 'P', 'G'], ['O', 'P', 'Y', 'R']] = (RunResult.solved ['Y', 'R', 'O', 'P'] 5, [['Y', 'R', 'O', 'P']]))) rfl
  exact loopRun_last ['Y', 'R', 'O', 'P'] 3 2 [['Y', 'R', 'O', 'P']] [['B', 'G', 'O', 'R'], ['B', 'O', 'Y', 'P'], ['B', 'Y', 'P', 'G'], ['O', 'P', 'Y', 'R']] rfl rfl (by decide)

lemma rs285 : loopRun (honest ['Y', 'R', 'P', 'B']) 7 none S0 [] =
    (RunResult.solved ['Y', 'R', 'P', 'B'] 5, [['B', 'G', 'O', 'R'], ['G', 'Y', 'R', 'P'], ['R', 'B', 'P', 'Y'], ['R', 'P', 'Y', 'B'], ['Y', 'R', 'P', 'B']]) := by
  refine (loopRun_none' (honest ['Y', 'R', 'P', 'B']) 7 S0 []).trans ?_
  refine (loopRun_step ['Y', 'R', 'P', 'B'] 7 6 ['B', 'G', 'O', 'R'] S0 [] 2 0 E72 ['G', 'Y', 'R', 'P'] [['B', 'G', 'O', 'R']] rfl ((calc_eq_fastP ['Y', 'R', 'P', 'B'] ['B', 'G', 'O', 'R'] (by decide) (by decide)).trans (by decide)) (by decide) pe72 rfl nx72 (by decide) (by decide) (by decide)).trans ?_
  refine Eq.trans (step_lift ['B', 'G', 'O', 'R'] (?_ : loopRun (honest ['Y', 'R', 'P', 'B']) 6 (some ['G', 'Y', 'R', 'P']) E72 [['B', 'G', 'O', 'R']] = (RunResult.solved ['Y', 'R', 'P', 'B'] 5, [['G', 'Y', 'R', 'P'], ['R', 'B', 'P', 'Y'], ['R', 'P', 'Y', 'B'], ['Y', 'R', 'P', 'B']]))) rfl
  refine (loopRun_step ['Y', 'R', 'P', 'B'] 6 5 ['G', 'Y', 'R', 'P'] E72 [['B', 'G', 'O', 'R']] 3 0 E158 ['R', 'B', 'P', 'Y'] [['B', 'G', 'O', 'R'], ['G', 'Y', 'R', 'P']] rfl ((calc_eq_fastP ['Y', 'R', 'P', 'B'] ['G', 'Y', 'R', 'P'] (by decide) (by decide)).trans (by decide)) (by decide) pe158 rfl nx158 (by decide) (by decide) (by decide)).trans ?_
  refine Eq.trans (step_lift ['G', 'Y', 'R', 'P'] (?_ : loopRun (honest ['Y', 'R', 'P', 'B']) 5 (some ['R', 'B', 'P', 'Y']) E158 [['B', 'G', 'O', 'R'], ['G', 'Y', 'R', 'P']] = (RunResult.solved ['Y', 'R', 'P', 'B'] 5, [['R', 'B', 'P', 'Y'], ['R', 'P', 'Y', 'B'], ['Y', 'R', 'P', 'B']]))) rfl
  refine (loopRun_step ['Y', 'R', 'P', 'B'] 5 4 ['R', 'B', 'P', 'Y'] E158 [['B', 'G', 'O', 'R'], ['G', 'Y', 'R', 'P']] 3 1 E237 ['R', 'P', 'Y', 'B'] [['B', 'G', 'O', 'R'], ['G', 'Y', 'R', 'P'], ['R', 'B', 'P', 'Y']] rfl ((calc_eq_fastP ['Y', 'R', 'P', 'B'] ['R', 'B', 'P', 'Y'] (by decide) (by decide)).trans (by decide)) (by decide) pe237 rfl nx237 (by decide) (by decide) (by decide)).trans ?_
  refine Eq.trans (step_lift ['R', 'B', 'P', 'Y'] (?_ : loopRun (honest ['Y', 'R', 'P', 'B']) 4 (some ['R', 'P', 'Y', 'B']) E237 [['B', 'G', 'O', 'R'], ['G', 'Y', 'R', 'P'], ['R', 'B', 'P', 'Y']] = (RunResult.solved ['Y', 'R', 'P', 'B'] 5, [['R', 'P', 'Y', 'B'], ['Y', 'R', 'P', 'B']]))) rfl
  refine (loopRun_step ['Y', 'R', 'P', 'B'] 4 3 ['R', 'P', 'Y', 'B'] E237 [['B', 'G', 'O', 'R'], ['G', 'Y', 'R', 'P'], ['R', 'B', 'P', 'Y']] 3 1 [['Y', 'R', 'P', 'B']] ['Y', 'R', 'P', 'B'] [['B', 'G', 'O', 'R'], ['G', 'Y', 'R', 'P'], ['R', 'B', 'P', 'Y'], ['R', 'P', 'Y', 'B']] rfl ((calc_eq_fastP ['Y', 'R', 'P', 'B'] ['R', 'P', 'Y', 'B'] (by decide) (by decide)).trans (by decide)) (by decide) pe284 rfl (findNextGuess_singleton ['Y', 'R', 'P', 'B'] [['B', 'G', 'O', 'R'], ['G', 'Y', 'R', 'P'], ['R', 'B', 'P', 'Y'], ['R', 'P', 'Y', 'B']]) (by decide) (by decide) (by decide)).trans ?_
  refine Eq.trans (step_lift ['R', 'P', 'Y', 'B'] (?_ : loopRun (honest ['Y', 'R', 'P', 'B']) 3 (some ['Y', 'R', 'P', 'B']) [['Y', 'R', 'P', 'B']] [['B', 'G', 'O', 'R'], ['G', 'Y', 'R', 'P'], ['R', 'B', 'P', 'Y'], ['R', 'P', 'Y', 'B']] = (RunResult.solved ['Y', 'R', 'P', 'B'] 5, [['Y', 'R', 'P', 'B']]))) rfl
  exact loopRun_last ['Y', 'R', 'P', 'B'] 3 2 [['Y', 'R', 'P', 'B']] [['B', 'G', 'O', 'R'], ['G', 'Y', 'R', 'P'], ['R', 'B', 'P', 'Y'], ['R', 'P', 'Y', 'B']] rfl rfl (by decide)

lemma rs286 : loopRun (honest ['Y', 'R', 'P', 'G']) 7 none S0 [] =
    (RunResult.solved ['Y', 'R', 'P', 'G'] 4, [['B', 'G', 'O', 'R'], ['G', 'Y', 'R', 'P'], ['R', 'P', 'G', 'Y'], ['Y', 'R', 'P', 'G']]) := by
  refine (loopRun_none' (honest ['Y', 'R', 'P', 'G']) 7 S0 []).trans ?_
  refine (loopRun_step ['Y', 'R', 'P', 'G'] 7 6 ['B', 'G', 'O', 'R'] S0 [] 2 0 E72 ['G', 'Y', 'R', 'P'] [['B', 'G', 'O', 'R']] rfl ((calc_eq_fastP ['Y', 'R', 'P', 'G'] ['B', 'G', 'O', 'R'] (by decide) (by decide)).trans (by decide)) (by decide) pe72 rfl nx72 (by decide) (by decide) (by decide)).trans ?_
  refine Eq.trans (step_lift ['B', 'G', 'O', 'R'] (?_ : loopRun (honest ['Y', 'R', 'P', 'G']) 6 (some ['G', 'Y', 'R', 'P']) E72 [['B', 'G', 'O', 'R']] = (RunResult.solved ['Y', 'R', 'P', 'G'] 4, [['G', 'Y', 'R', 'P'], ['R', 'P', 'G', 'Y'], ['Y', 'R', 'P', 'G']]))) rfl
  refine (loopRun_step ['Y', 'R', 'P', 'G'] 6 5 ['G', 'Y', 'R', 'P'] E72 [['B', 'G', 'O', 'R']] 4 0 E233 ['R', 'P', 'G', 'Y'] [['B', 'G', 'O', 'R'], ['G', 'Y', 'R', 'P']] rfl ((calc_eq_fastP ['Y', 'R', 'P', 'G'] ['G', 'Y', 'R', 'P'] (by decide) (by decide)).trans (by decide)) (by decide) pe233 rfl nx233 (by decide) (by decide) (by decide)).trans ?_
  refine Eq.trans (step_lift ['G', 'Y', 'R', 'P'] (?_ : loopRun (honest ['Y', 'R', 'P', 'G']) 5 (some ['R', 'P', 'G', 'Y']) E233 [['B', 'G', 'O', 'R'], ['G', 'Y', 'R', 'P']] = (RunResult.solved ['Y', 'R', 'P', 'G'] 4, [['R', 'P', 'G', 'Y'], ['Y', 'R', 'P', 'G']]))) rfl
  refine (loopRun_step ['Y', 'R', 'P', 'G'] 5 4 ['R', 'P', 'G', 'Y'] E233 [['B', 'G', 'O', 'R'], ['G', 'Y', 'R', 'P']] 4 0 E285 ['Y', 'R', 'P', 'G'] [['B', 'G', 'O', 'R'], ['G', 'Y', 'R', 'P'], ['R', 'P', 'G', 'Y']] rfl ((calc_eq_fastP ['Y', 'R', 'P', 'G'] ['R', 'P', 'G', 'Y'] (by decide) (by decide)).trans (by decide)) (by decide) pe285 rfl nx285 (by decide) (by decide) (by decide)).trans ?_
  refine Eq.trans (step_lift ['R', 'P', 'G', 'Y'] (?_ : loopRun (honest ['Y', 'R', 'P', 'G']) 4 (some ['Y', 'R', 'P', 'G']) E285 [['B', 'G', 'O', 'R'], ['G', 'Y', 'R', 'P'], ['R', 'P', 'G', 'Y']] = (RunResult.solved ['Y', 'R', 'P', 'G'] 4, [['Y', 'R', 'P', 'G']]))) rfl
  exact loopRun_last ['Y', 'R', 'P', 'G'] 4 3 E285 [['B', 'G', 'O', 'R'], ['G', 'Y', 'R', 'P'], ['R', 'P', 'G', 'Y']] rfl rfl (by decide)

lemma rs287 : loopRun (honest ['Y', 'R', 'P', 'O']) 7 none S0 [] =
    (RunResult.solved ['Y', 'R', 'P', 'O'] 5, [['B', 'G', 'O', 'R'], ['G', 'Y', 'R', 'P'], ['R', 'B', 'P', 'Y'], ['R', 'P', 'Y', 'O'], ['Y', 'R', 'P', 'O']]) := by
  refine (loopRun_none' (honest ['Y', 'R', 'P', 'O']) 7 S0 []).trans ?_
  refine (loopRun_step ['Y', 'R', 'P', 'O'] 7 6 ['B', 'G', 'O', 'R'] S0 [] 2 0 E72 ['G', 'Y', 'R', 'P'] [['B', 'G', 'O', 'R']] rfl ((calc_eq_fastP ['Y', 'R', 'P', 'O'] ['B', 'G', 'O', 'R'] (by decide) (by decide)).trans (by decide)) (by decide) pe72 rfl nx72 (by decide) (by decide) (by decide)).trans ?_
  refine Eq.trans (step_lift ['B', 'G', 'O', 'R'] (?_ : loopRun (honest ['Y', 'R', 'P', 'O']) 6 (some ['G', 'Y', 'R', 'P']) E72 [['B', 'G', 'O', 'R']] = (RunResult.solved ['Y', 'R', 'P', 'O'] 5, [['G', 'Y', 'R', 'P'], ['R', 'B', 'P', 'Y'], ['R', 'P', 'Y', 'O'], ['Y', 'R', 'P', 'O']]))) rfl
  refine (loopRun_step ['Y', 'R', 'P', 'O'] 6 5 ['G', 'Y', 'R', 'P'] E72 [['B', 'G', 'O', 'R']] 3 0 E158 ['R', 'B', 'P', 'Y'] [['B', 'G', 'O', 'R'], ['G', 'Y', 'R', 'P']] rfl ((calc_eq_fastP ['Y', 'R', 'P', 'O'] ['G', 'Y', 'R', 'P'] (by decide) (by decide)).trans (by decide)) (by decide) pe158 rfl nx158 (by decide) (by decide) (by decide)).trans ?_
  refine Eq.trans (step_lift ['G', 'Y', 'R', 'P'] (?_ : loopRun (honest ['Y', 'R', 'P', 'O']) 5 (some ['R', 'B', 'P', 'Y']) E158 [['B', 'G', 'O', 'R'], ['G', 'Y', 'R', 'P']] = (RunResult.solved ['Y', 'R', 'P', 'O'] 5, [['R', 'B', 'P', 'Y'], ['R', 'P', 'Y', 'O'], ['Y', 'R', 'P', 'O']]))) rfl
  refine (loopRun_step ['Y', 'R', 'P', 'O'] 5 4 ['R', 'B', 'P', 'Y'] E158 [['B', 'G', 'O', 'R'], ['G', 'Y', 'R', 'P']] 2 1 E239 ['R', 'P', 'Y', 'O'] [['B', 'G', 'O', 'R'], ['G', 'Y', 'R', 'P'], ['R', 'B', 'P', 'Y']] rfl ((calc_eq_fastP ['Y', 'R', 'P', 'O'] ['R', 'B', 'P', 'Y'] (by decide) (by decide)).trans (by decide)) (by decide) pe239 rfl nx239 (by decide) (by decide) (by decide)).trans ?_
  refine Eq.trans (step_lift ['R', 'B', 'P', 'Y'] (?_ : loopRun (honest ['Y', 'R', 'P', 'O']) 4 (some ['R', 'P', 'Y', 'O']) E239 [['B', 'G', 'O', 'R'], ['G', 'Y', 'R', 'P'], ['R', 'B', 'P', 'Y']] = (RunResult.solved ['Y', 'R', 'P', 'O'] 5, [['R', 'P', 'Y', 'O'], ['Y', 'R', 'P', 'O']]))) rfl
  refine (loopRun_step ['Y', 'R', 'P', 'O'] 4 3 ['R', 'P', 'Y', 'O'] E239 [['B', 'G', 'O', 'R'], ['G', 'Y', 'R', 'P'], ['R', 'B', 'P', 'Y']] 3 1 [['Y', 'R', 'P', 'O']] ['Y', 'R', 'P', 'O'] [['B', 'G', 'O', 'R'], ['G', 'Y', 'R', 'P'], ['R', 'B', 'P', 'Y'], ['R', 'P', 'Y', 'O']] rfl ((calc_eq_fastP ['Y', 'R', 'P', 'O'] ['R', 'P', 'Y', 'O'] (by decide) (by decide)).trans (by decide)) (by decide) pe286 rfl (findNextGuess_singleton ['Y', 'R', 'P', 'O'] [['B', 'G', 'O', 'R'], ['G', 'Y', 'R', 'P'], ['R', 'B', 'P', 'Y'], ['R', 'P', 'Y', 'O']]) (by decide) (by decide) (by decide)).trans ?_
  refine Eq.trans (step_lift ['R', 'P', 'Y', 'O'] (?_ : loopRun (honest ['Y', 'R', 'P', 'O']) 3 (some ['Y', 'R', 'P', 'O']) [['Y', 'R', 'P', 'O']] [['B', 'G', 'O', 'R'], ['G', 'Y', 'R', 'P'], ['R', 'B', 'P', 'Y'], ['R', 'P', 'Y', 'O']] = (RunResult.solved ['Y', 'R', 'P', 'O'] 5, [['Y', 'R', 'P', 'O']]))) rfl
  exact loopRun_last ['Y', 'R', 'P', 'O'] 3 2 [['Y', 'R', 'P', 'O']] [['B', 'G', 'O', 'R'], ['G', 'Y', 'R', 'P'], ['R', 'B', 'P', 'Y'], ['R', 'P', 'Y', 'O']] rfl rfl (by decide)

lemma rs288 : loopRun (honest ['Y', 'P', 'B', 'G']) 7 none S0 [] =
    (RunResult.solved ['Y', 'P', 'B', 'G'] 4, [['B', 'G', 'O', 'R'], ['G', 'Y', 'R', 'P'], ['R', 'B', 'P', 'Y'], ['Y', 'P', 'B', 'G']]) := by
  refine (loopRun_none' (honest ['Y', 'P', 'B', 'G']) 7 S0 []).trans ?_
  refine (loopRun_step ['Y', 'P', 'B', 'G'] 7 6 ['B', 'G', 'O', 'R'] S0 [] 2 0 E72 ['G', 'Y', 'R', 'P'] [['B', 'G', 'O', 'R']] rfl ((calc_eq_fastP ['Y', 'P', 'B', 'G'] ['B', 'G', 'O', 'R'] (by decide) (by decide)).trans (by decide)) (by decide) pe72 rfl nx72 (by decide) (by decide) (by decide)).trans ?_
  refine Eq.trans (step_lift ['B', 'G', 'O', 'R'] (?_ : loopRun (honest ['Y', 'P', 'B', 'G']) 6 (some ['G', 'Y', 'R', 'P']) E72 [['B', 'G', 'O', 'R']] = (RunResult.solved ['Y', 'P', 'B', 'G'] 4, [['G', 'Y', 'R', 'P'], ['R', 'B', 'P', 'Y'], ['Y', 'P', 'B', 'G']]))) rfl
  refine (loopRun_step ['Y', 'P', 'B', 'G'] 6 5 ['G', 'Y', 'R', 'P'] E72 [['B', 'G', 'O', 'R']] 3 0 E158 ['R', 'B', 'P', 'Y'] [['B', 'G', 'O', 'R'], ['G', 'Y', 'R', 'P']] rfl ((calc_eq_fastP ['Y', 'P', 'B', 'G'] ['G', 'Y', 'R', 'P'] (by decide) (by decide)).trans (by decide)) (by decide) pe158 rfl nx158 (by decide) (by decide) (by decide)).trans ?_
  refine Eq.trans (step_lift ['G', 'Y', 'R', 'P'] (?_ : loopRun (honest ['Y', 'P', 'B', 'G']) 5 (some ['R', 'B', 'P', 'Y']) E158 [['B', 'G', 'O', 'R'], ['G', 'Y', 'R', 'P']] = (RunResult.solved ['Y', 'P', 'B', 'G'] 4, [['R', 'B', 'P', 'Y'], ['Y', 'P', 'B', 'G']]))) rfl
  refine (loopRun_step ['Y', 'P', 'B', 'G'] 5 4 ['R', 'B', 'P', 'Y'] E158 [['B', 'G', 'O', 'R'], ['G', 'Y', 'R', 'P']] 3 0 E287 ['Y', 'P', 'B', 'G'] [['B', 'G', 'O', 'R'], ['G', 'Y', 'R', 'P'], ['R', 'B', 'P', 'Y']] rfl ((calc_eq_fastP ['Y', 'P', 'B', 'G'] ['R', 'B', 'P', 'Y'] (by decide) (by decide)).trans (by decide)) (by decide) pe287 rfl nx287 (by decide) (by decide) (by decide)).trans ?_
  refine Eq.trans (step_lift ['R', 'B', 'P', 'Y'] (?_ : loopRun (honest ['Y', 'P', 'B', 'G']) 4 (some ['Y', 'P', 'B', 'G']) E287 [['B', 'G', 'O', 'R'], ['G', 'Y', 'R', 'P'], ['R', 'B', 'P', 'Y']] = (RunResult.solved ['Y', 'P', 'B', 'G'] 4, [['Y', 'P', 'B', 'G']]))) rfl
  exact loopRun_last ['Y', 'P', 'B', 'G'] 4 3 E287 [['B', 'G', 'O', 'R'], ['G', 'Y', 'R', 'P'], ['R', 'B', 'P', 'Y']] rfl rfl (by decide)

lemma rs289 : loopRun (honest ['Y', 'P', 'B', 'O']) 7 none S0 [] =
    (RunResult.solved ['Y', 'P', 'B', 'O'] 4, [['B', 'G', 'O', 'R'], ['G', 'Y', 'R', 'P'], ['O', 'B', 'P', 'Y'], ['Y', 'P', 'B', 'O']]) := by
  refine (loopRun_none' (honest ['Y', 'P', 'B', 'O']) 7 S0 []).trans ?_
  refine (loopRun_step ['Y', 'P', 'B', 'O'] 7 6 ['B', 'G', 'O', 'R'] S0 [] 2 0 E72 ['G', 'Y', 'R', 'P'] [['B', 'G', 'O', 'R']] rfl ((calc_eq_fastP ['Y', 'P', 'B', 'O'] ['B', 'G', 'O', 'R'] (by decide) (by decide)).trans (by decide)) (by decide) pe72 rfl nx72 (by decide) (by decide) (by decide)).trans ?_
  refine Eq.trans (step_lift ['B', 'G', 'O', 'R'] (?_ : loopRun (honest ['Y', 'P', 'B', 'O']) 6 (some ['G', 'Y', 'R', 'P']) E72 [['B', 'G', 'O', 'R']] = (RunResult.solved ['Y', 'P', 'B', 'O'] 4, [['G', 'Y', 'R', 'P'], ['O', 'B', 'P', 'Y'], ['Y', 'P', 'B', 'O']]))) rfl
  refine (loopRun_step ['Y', 'P', 'B', 'O'] 6 5 ['G', 'Y', 'R', 'P'] E72 [['B', 'G', 'O', 'R']] 2 0 E133 ['O', 'B', 'P', 'Y'] [['B', 'G', 'O', 'R'], ['G', 'Y', 'R', 'P']] rfl ((calc_eq_fastP ['Y', 'P', 'B', 'O'] ['G', 'Y', 'R', 'P'] (by decide) (by decide)).trans (by decide)) (by decide) pe133 rfl nx133 (by decide) (by decide) (by decide)).trans ?_
  refine Eq.trans (step_lift ['G', 'Y', 'R', 'P'] (?_ : loopRun (honest ['Y', 'P', 'B', 'O']) 5 (some ['O', 'B', 'P', 'Y']) E133 [['B', 'G', 'O', 'R'], ['G', 'Y', 'R', 'P']] = (RunResult.solved ['Y', 'P', 'B', 'O'] 4, [['O', 'B', 'P', 'Y'], ['Y', 'P', 'B', 'O']]))) rfl
  refine (loopRun_step ['Y', 'P', 'B', 'O'] 5 4 ['O', 'B', 'P', 'Y'] E133 [['B', 'G', 'O', 'R'], ['G', 'Y', 'R', 'P']] 4 0 E288 ['Y', 'P', 'B', 'O'] [['B', 'G', 'O', 'R'], ['G', 'Y', 'R', 'P'], ['O', 'B', 'P', 'Y']] rfl ((calc_eq_fastP ['Y', 'P', 'B', 'O'] ['O', 'B', 'P', 'Y'] (by decide) (by decide)).trans (by decide)) (by decide) pe288 rfl nx288 (by decide) (by decide) (by decide)).trans ?_
  refine Eq.trans (step_lift ['O', 'B', 'P', 'Y'] (?_ : loopRun (honest ['Y', 'P', 'B', 'O']) 4 (some ['Y', 'P', 'B', 'O']) E288 [['B', 'G', 'O', 'R'], ['G', 'Y', 'R', 'P'], ['O', 'B', 'P', 'Y']] = (RunResult.solved ['Y', 'P', 'B', 'O'] 4, [['Y', 'P', 'B', 'O']]))) rfl
  exact loopRun_last ['Y', 'P', 'B', 'O'] 4 3 E288 [['B', 'G', 'O', 'R'], ['G', 'Y', 'R', 'P'], ['O', 'B', 'P', 'Y']] rfl rfl (by decide)

lemma rs290 : loopRun (honest ['Y', 'P', 'B', 'R']) 7 none S0 [] =
    (RunResult.solved ['Y', 'P', 'B', 'R'] 4, [['B', 'G', 'O', 'R'], ['B', 'O', 'Y', 'P'], ['G', 'P', 'O', 'Y'], ['Y', 'P', 'B', 'R']]) := by
  refine (loopRun_none' (honest ['Y', 'P', 'B', 'R']) 7 S0 []).trans ?_
  refine (loopRun_step ['Y', 'P', 'B', 'R'] 7 6 ['B', 'G', 'O', 'R'] S0 [] 1 1 E20 ['B', 'O', 'Y', 'P'] [['B', 'G', 'O', 'R']] rfl ((calc_eq_fastP ['Y', 'P', 'B', 'R'] ['B', 'G', 'O', 'R'] (by decide) (by decide)).trans (by decide)) (by decide) pe20 rfl nx20 (by decide) (by decide) (by decide)).trans ?_
  refine Eq.trans (step_lift ['B', 'G', 'O', 'R'] (?_ : loopRun (honest ['Y', 'P', 'B', 'R']) 6 (some ['B', 'O', 'Y', 'P']) E20 [['B', 'G', 'O', 'R']] = (RunResult.solved ['Y', 'P', 'B', 'R'] 4, [['B', 'O', 'Y', 'P'], ['G', 'P', 'O', 'Y'], ['Y', 'P', 'B', 'R']]))) rfl
  refine (loopRun_step ['Y', 'P', 'B', 'R'] 6 5 ['B', 'O', 'Y', 'P'] E20 [['B', 'G', 'O', 'R']] 3 0 E114 ['G', 'P', 'O', 'Y'] [['B', 'G', 'O', 'R'], ['B', 'O', 'Y', 'P']] rfl ((calc_eq_fastP ['Y', 'P', 'B', 'R'] ['B', 'O', 'Y', 'P'] (by decide) (by decide)).trans (by decide)) (by decide) pe114 rfl nx114 (by decide) (by decide) (by decide)).trans ?_
  refine Eq.trans (step_lift ['B', 'O', 'Y', 'P'] (?_ : loopRun (honest ['Y', 'P', 'B', 'R']) 5 (some ['G', 'P', 'O', 'Y']) E114 [['B', 'G', 'O', 'R'], ['B', 'O', 'Y', 'P']] = (RunResult.solved ['Y', 'P', 'B', 'R'] 4, [['G', 'P', 'O', 'Y'], ['Y', 'P', 'B', 'R']]))) rfl
  refine (loopRun_step ['Y', 'P', 'B', 'R'] 5 4 ['G', 'P', 'O', 'Y'] E114 [['B', 'G', 'O', 'R'], ['B', 'O', 'Y', 'P']] 1 1 [['Y', 'P', 'B', 'R']] ['Y', 'P', 'B', 'R'] [['B', 'G', 'O', 'R'], ['B', 'O', 'Y', 'P'], ['G', 'P', 'O', 'Y']] rfl ((calc_eq_fastP ['Y', 'P', 'B', 'R'] ['G', 'P', 'O', 'Y'] (by decide) (by decide)).trans (by decide)) (by decide) pe289 rfl (findNextGuess_singleton ['Y', 'P', 'B', 'R'] [['B', 'G', 'O', 'R'], ['B', 'O', 'Y', 'P'], ['G', 'P', 'O', 'Y']]) (by decide) (by decide) (by decide)).trans ?_
  refine Eq.trans (step_lift ['G', 'P', 'O', 'Y'] (?_ : loopRun (honest ['Y', 'P', 'B', 'R']) 4 (some ['Y', 'P', 'B', 'R']) [['Y', 'P', 'B', 'R']] [['B', 'G', 'O', 'R'], ['B', 'O', 'Y', 'P'], ['G', 'P', 'O', 'Y']] = (RunResult.solved ['Y', 'P', 'B', 'R'] 4, [['Y', 'P', 'B', 'R']]))) rfl
  exact loopRun_last ['Y', 'P', 'B', 'R'] 4 3 [['Y', 'P', 'B', 'R']] [['B', 'G', 'O', 'R'], ['B', 'O', 'Y', 'P'], ['G', 'P', 'O', 'Y']] rfl rfl (by decide)

lemma rs291 : loopRun (honest ['Y', 'P', 'G', 'B']) 7 none S0 [] =
    (RunResult.solved ['Y', 'P', 'G', 'B'] 5, [['B', 'G', 'O', 'R'], ['G', 'Y', 'R', 'P'], ['R', 'B', 'P', 'Y'], ['Y', 'P', 'B', 'G'], ['Y', 'P', 'G', 'B']]) := by
  refine (loopRun_none' (honest ['Y', 'P', 'G', 'B']) 7 S0 []).trans ?_
  refine (loopRun_step ['Y', 'P', 'G', 'B'] 7 6 ['B', 'G', 'O', 'R'] S0 [] 2 0 E72 ['G', 'Y', 'R', 'P'] [['B', 'G', 'O', 'R']] rfl ((calc_eq_fastP ['Y', 'P', 'G', 'B'] ['B', 'G', 'O', 'R'] (by decide) (by decide)).trans (by decide)) (by decide) pe72 rfl nx72 (by decide) (by decide) (by decide)).trans ?_
  refine Eq.trans (step_lift ['B', 'G', 'O', 'R'] (?_ : loopRun (honest ['Y', 'P', 'G', 'B']) 6 (some ['G', 'Y', 'R', 'P']) E72 [['B', 'G', 'O', 'R']] = (RunResult.solved ['Y', 'P', 'G', 'B'] 5, [['G', 'Y', 'R', 'P'], ['R', 'B', 'P', 'Y'], ['Y', 'P', 'B', 'G'], ['Y', 'P', 'G', 'B']]))) rfl
  refine (loopRun_step ['Y', 'P', 'G', 'B'] 6 5 ['G', 'Y', 'R', 'P'] E72 [['B', 'G', 'O', 'R']] 3 0 E158 ['R', 'B', 'P', 'Y'] [['B', 'G', 'O', 'R'], ['G', 'Y', 'R', 'P']] rfl ((calc_eq_fastP ['Y', 'P', 'G', 'B'] ['G', 'Y', 'R', 'P'] (by decide) (by decide)).trans (by decide)) (by decide) pe158 rfl nx158 (by decide) (by decide) (by decide)).trans ?_
  refine Eq.trans (step_lift ['G', 'Y', 'R', 'P'] (?_ : loopRun (honest ['Y', 'P', 'G', 'B']) 5 (some ['R', 'B', 'P', 'Y']) E158 [['B', 'G', 'O', 'R'], ['G', 'Y', 'R', 'P']] = (RunResult.solved ['Y', 'P', 'G', 'B'] 5, [['R', 'B', 'P', 'Y'], ['Y', 'P', 'B', 'G'], ['Y', 'P', 'G', 'B']]))) rfl
  refine (loopRun_step ['Y', 'P', 'G', 'B'] 5 4 ['R', 'B', 'P', 'Y'] E158 [['B', 'G', 'O', 'R'], ['G', 'Y', 'R', 'P']] 3 0 E287 ['Y', 'P', 'B', 'G'] [['B', 'G', 'O', 'R'], ['G', 'Y', 'R', 'P'], ['R', 'B', 'P', 'Y']] rfl ((calc_eq_fastP ['Y', 'P', 'G', 'B'] ['R', 'B', 'P', 'Y'] (by decide) (by decide)).trans (by decide)) (by decide) pe287 rfl nx287 (by decide) (by decide) (by decide)).trans ?_
  refine Eq.trans (step_lift ['R', 'B', 'P', 'Y'] (?_ : loopRun (honest ['Y', 'P', 'G', 'B']) 4 (some ['Y', 'P', 'B', 'G']) E287 [['B', 'G', 'O', 'R'], ['G', 'Y', 'R', 'P'], ['R', 'B', 'P', 'Y']] = (RunResult.solved ['Y', 'P', 'G', 'B'] 5, [['Y', 'P', 'B', 'G'], ['Y', 'P', 'G', 'B']]))) rfl
  refine (loopRun_step ['Y', 'P', 'G', 'B'] 4 3 ['Y', 'P', 'B', 'G'] E287 [['B', 'G', 'O', 'R'], ['G', 'Y', 'R', 'P'], ['R', 'B', 'P', 'Y']] 2 2 [['Y', 'P', 'G', 'B']] ['Y', 'P', 'G', 'B'] [['B', 'G', 'O', 'R'], ['G', 'Y', 'R', 'P'], ['R', 'B', 'P', 'Y'], ['Y', 'P', 'B', 'G']] rfl ((calc_eq_fastP ['Y', 'P', 'G', 'B'] ['Y', 'P', 'B', 'G'] (by decide) (by decide)).trans (by decide)) (by decide) pe290 rfl (findNextGuess_singleton ['Y', 'P', 'G', 'B'] [['B', 'G', 'O', 'R'], ['G', 'Y', 'R', 'P'], ['R', 'B', 'P', 'Y'], ['Y', 'P', 'B', 'G']]) (by decide) (by decide) (by decide)).trans ?_
  refine Eq.trans (step_lift ['Y', 'P', 'B', 'G'] (?_ : loopRun (honest ['Y', 'P', 'G', 'B']) 3 (some ['Y', 'P', 'G', 'B']) [['Y', 'P', 'G', 'B']] [['B', 'G', 'O', 'R'], ['G', 'Y', 'R', 'P'], ['R', 'B', 'P', 'Y'], ['Y', 'P', 'B', 'G']] = (RunResult.solved ['Y', 'P', 'G', 'B'] 5, [['Y', 'P', 'G', 'B']]))) rfl
  exact loopRun_last ['Y', 'P', 'G', 'B'] 3 2 [['Y', 'P', 'G', 'B']] [['B', 'G', 'O', 'R'], ['G', 'Y', 'R', 'P'], ['R', 'B', 'P', 'Y'], ['Y', 'P', 'B', 'G']] rfl rfl (by decide)

lemma rs292 : loopRun (honest ['Y', 'P', 'G', 'O']) 7 none S0 [] =
    (RunResult.solved ['Y', 'P', 'G', 'O'] 5, [['B', 'G', 'O', 'R'], ['G', 'Y', 'R', 'P'], ['R', 'B', 'P', 'Y'], ['O', 'P', 'Y', 'G'], ['Y', 'P', 'G', 'O']]) := by
  refine (loopRun_none' (honest ['Y', 'P', 'G', 'O']) 7 S0 []).trans ?_
  refine (loopRun_step ['Y', 'P', 'G', 'O'] 7 6 ['B', 'G', 'O', 'R'] S0 [] 2 0 E72 ['G', 'Y', 'R', 'P'] [['B', 'G', 'O', 'R']] rfl ((calc_eq_fastP ['Y', 'P', 'G', 'O'] ['B', 'G', 'O', 'R'] (by decide) (by decide)).trans (by decide)) (by decide) pe72 rfl nx72 (by decide) (by decide) (by decide)).trans ?_
  refine Eq.trans (step_lift ['B', 'G', 'O', 'R'] (?_ : loopRun (honest ['Y', 'P', 'G', 'O']) 6 (some ['G', 'Y', 'R', 'P']) E72 [['B', 'G', 'O', 'R']] = (RunResult.solved ['Y', 'P', 'G', 'O'] 5, [['G', 'Y', 'R', 'P'], ['R', 'B', 'P', 'Y'], ['O', 'P', 'Y', 'G'], ['Y', 'P', 'G', 'O']]))) rfl
  refine (loopRun_step ['Y', 'P', 'G', 'O'] 6 5 ['G', 'Y', 'R', 'P'] E72 [['B', 'G', 'O', 'R']] 3 0 E158 ['R', 'B', 'P', 'Y'] [['B', 'G', 'O', 'R'], ['G', 'Y', 'R', 'P']] rfl ((calc_eq_fastP ['Y', 'P', 'G', 'O'] ['G', 'Y', 'R', 'P'] (by decide) (by decide)).trans (by decide)) (by decide) pe158 rfl nx158 (by decide) (by decide) (by decide)).trans ?_
  refine Eq.trans (step_lift ['G', 'Y', 'R', 'P'] (?_ : loopRun (honest ['Y', 'P', 'G', 'O']) 5 (some ['R', 'B', 'P', 'Y']) E158 [['B', 'G', 'O', 'R'], ['G', 'Y', 'R', 'P']] = (RunResult.solved ['Y', 'P', 'G', 'O'] 5, [['R', 'B', 'P', 'Y'], ['O', 'P', 'Y', 'G'], ['Y', 'P', 'G', 'O']]))) rfl
  refine (loopRun_step ['Y', 'P', 'G', 'O'] 5 4 ['R', 'B', 'P', 'Y'] E158 [['B', 'G', 'O', 'R'], ['G', 'Y', 'R', 'P']] 2 0 E181 ['O', 'P', 'Y', 'G'] [['B', 'G', 'O', 'R'], ['G', 'Y', 'R', 'P'], ['R', 'B', 'P', 'Y']] rfl ((calc_eq_fastP ['Y', 'P', 'G', 'O'] ['R', 'B', 'P', 'Y'] (by decide) (by decide)).trans (by decide)) (by decide) pe181 rfl nx181 (by decide) (by decide) (by decide)).trans ?_
  refine Eq.trans (step_lift ['R', 'B', 'P', 'Y'] (?_ : loopRun (honest ['Y', 'P', 'G', 'O']) 4 (some ['O', 'P', 'Y', 'G']) E181 [['B', 'G', 'O', 'R'], ['G', 'Y', 'R', 'P'], ['R', 'B', 'P', 'Y']] = (RunResult.solved ['Y', 'P', 'G', 'O'] 5, [['O', 'P', 'Y', 'G'], ['Y', 'P', 'G', 'O']]))) rfl
  refine (loopRun_step ['Y', 'P', 'G', 'O'] 4 3 ['O', 'P', 'Y', 'G'] E181 [['B', 'G', 'O', 'R'], ['G', 'Y', 'R', 'P'], ['R', 'B', 'P', 'Y']] 3 1 [['Y', 'P', 'G', 'O']] ['Y', 'P', 'G', 'O'] [['B', 'G', 'O', 'R'], ['G', 'Y', 'R', 'P'], ['R', 'B', 'P', 'Y'], ['O', 'P', 'Y', 'G']] rfl ((calc_eq_fastP ['Y', 'P', 'G', 'O'] ['O', 'P', 'Y', 'G'] (by decide) (by decide)).trans (by decide)) (by decide) pe291 rfl (findNextGuess_singleton ['Y', 'P', 'G', 'O'] [['B', 'G', 'O', 'R'], ['G', 'Y', 'R', 'P'], ['R', 'B', 'P', 'Y'], ['O', 'P', 'Y', 'G']]) (by decide) (by decide) (by decide)).trans ?_
  refine Eq.trans (step_lift ['O', 'P', 'Y', 'G'] (?_ : loopRun (honest ['Y', 'P', 'G', 'O']) 3 (some ['Y', 'P', 'G', 'O']) [['Y', 'P', 'G', 'O']] [['B', 'G', 'O', 'R'], ['G', 'Y', 'R', 'P'], ['R', 'B', 'P', 'Y'], ['O', 'P', 'Y', 'G']] = (RunResult.solved ['Y', 'P', 'G', 'O'] 5, [['Y', 'P', 'G', 'O']]))) rfl
  exact loopRun_last ['Y', 'P', 'G', 'O'] 3 2 [['Y', 'P', 'G', 'O']] [['B', 'G', 'O', 'R'], ['G', 'Y', 'R', 'P'], ['R', 'B', 'P', 'Y'], ['O', 'P', 'Y', 'G']] rfl rfl (by decide)

lemma rs293 : loopRun (honest ['Y', 'P', 'G', 'R']) 7 none S0 [] =
    (RunResult.solved ['Y', 'P', 'G', 'R'] 5, [['B', 'G', 'O', 'R'], ['B', 'O', 'Y', 'P'], ['G', 'Y', 'P', 'R'], ['R', 'G', 'P', 'Y'], ['Y', 'P', 'G', 'R']]) := by
  refine (loopRun_none' (honest ['Y', 'P', 'G', 'R']) 7 S0 []).trans ?_
  refine (loopRun_step ['Y', 'P', 'G', 'R'] 7 6 ['B', 'G', 'O', 'R'] S0 [] 1 1 E20 ['B', 'O', 'Y', 'P'] [['B', 'G', 'O', 'R']] rfl ((calc_eq_fastP ['Y', 'P', 'G', 'R'] ['B', 'G', 'O', 'R'] (by decide) (by decide)).trans (by decide)) (by decide) pe20 rfl nx20 (by decide) (by decide) (by decide)).trans ?_
  refine Eq.trans (step_lift ['B', 'G', 'O', 'R'] (?_ : loopRun (honest ['Y', 'P', 'G', 'R']) 6 (some ['B', 'O', 'Y', 'P']) E20 [['B', 'G', 'O', 'R']] = (RunResult.solved ['Y', 'P', 'G', 'R'] 5, [['B', 'O', 'Y', 'P'], ['G', 'Y', 'P', 'R'], ['R', 'G', 'P', 'Y'], ['Y', 'P', 'G', 'R']]))) rfl
  refine (loopRun_step ['Y', 'P', 'G', 'R'] 6 5 ['B', 'O', 'Y', 'P'] E20 [['B', 'G', 'O', 'R']] 2 0 E109 ['G', 'Y', 'P', 'R'] [['B', 'G', 'O', 'R'], ['B', 'O', 'Y', 'P']] rfl ((calc_eq_fastP ['Y', 'P', 'G', 'R'] ['B', 'O', 'Y', 'P'] (by decide) (by decide)).trans (by decide)) (by decide) pe109 rfl nx109 (by decide) (by decide) (by decide)).trans ?_
  refine Eq.trans (step_lift ['B', 'O', 'Y', 'P'] (?_ : loopRun (honest ['Y', 'P', 'G', 'R']) 5 (some ['G', 'Y', 'P', 'R']) E109 [['B', 'G', 'O', 'R'], ['B', 'O', 'Y', 'P']] = (RunResult.solved ['Y', 'P', 'G', 'R'] 5, [['G', 'Y', 'P', 'R'], ['R', 'G', 'P', 'Y'], ['Y', 'P', 'G', 'R']]))) rfl
  refine (loopRun_step ['Y', 'P', 'G', 'R'] 5 4 ['G', 'Y', 'P', 'R'] E109 [['B', 'G', 'O', 'R'], ['B', 'O', 'Y', 'P']] 3 1 E204 ['R', 'G', 'P', 'Y'] [['B', 'G', 'O', 'R'], ['B', 'O', 'Y', 'P'], ['G', 'Y', 'P', 'R']] rfl ((calc_eq_fastP ['Y', 'P', 'G', 'R'] ['G', 'Y', 'P', 'R'] (by decide) (by decide)).trans (by decide)) (by decide) pe204 rfl nx204 (by decide) (by decide) (by decide)).trans ?_
  refine Eq.trans (step_lift ['G', 'Y', 'P', 'R'] (?_ : loopRun (honest ['Y', 'P', 'G', 'R']) 4 (some ['R', 'G', 'P', 'Y']) E204 [['B', 'G', 'O', 'R'], ['B', 'O', 'Y', 'P'], ['G', 'Y', 'P', 'R']] = (RunResult.solved ['Y', 'P', 'G', 'R'] 5, [['R', 'G', 'P', 'Y'], ['Y', 'P', 'G', 'R']]))) rfl
  refine (loopRun_step ['Y', 'P', 'G', 'R'] 4 3 ['R', 'G', 'P', 'Y'] E204 [['B', 'G', 'O', 'R'], ['B', 'O', 'Y', 'P'], ['G', 'Y', 'P', 'R']] 4 0 [['Y', 'P', 'G', 'R']] ['Y', 'P', 'G', 'R'] [['B', 'G', 'O', 'R'], ['B', 'O', 'Y', 'P'], ['G', 'Y', 'P', 'R'], ['R', 'G', 'P', 'Y']] rfl ((calc_eq_fastP ['Y', 'P', 'G', 'R'] ['R', 'G', 'P', 'Y'] (by decide) (by decide)).trans (by decide)) (by decide) pe292 rfl (findNextGuess_singleton ['Y', 'P', 'G', 'R'] [['B', 'G', 'O', 'R'], ['B', 'O', 'Y', 'P'], ['G', 'Y', 'P', 'R'], ['R', 'G', 'P', 'Y']]) (by decide) (by decide) (by decide)).trans ?_
  refine Eq.trans (step_lift ['R', 'G', 'P', 'Y'] (?_ : loopRun (honest ['Y', 'P', 'G', 'R']) 3 (some ['Y', 'P', 'G', 'R']) [['Y', 'P', 'G', 'R']] [['B', 'G', 'O', 'R'], ['B', 'O', 'Y', 'P'], ['G', 'Y', 'P', 'R'], ['R', 'G', 'P', 'Y']] = (RunResult.solved ['Y', 'P', 'G', 'R'] 5, [['Y', 'P', 'G', 'R']]))) rfl
  exact loopRun_last ['Y', 'P', 'G', 'R'] 3 2 [['Y', 'P', 'G', 'R']] [['B', 'G', 'O', 'R'], ['B', 'O', 'Y', 'P'], ['G', 'Y', 'P', 'R'], ['R', 'G', 'P', 'Y']] rfl rfl (by decide)

lemma rs294 : loopRun (honest ['Y', 'P', 'O', 'B']) 7 none S0 [] =
    (RunResult.solved ['Y', 'P', 'O', 'B'] 3, [['B', 'G', 'O', 'R'], ['B', 'O', 'Y', 'P'], ['Y', 'P', 'O', 'B']]) := by
  refine (loopRun_none' (honest ['Y', 'P', 'O', 'B']) 7 S0 []).trans ?_
  refine (loopRun_step ['Y', 'P', 'O', 'B'] 7 6 ['B', 'G', 'O', 'R'] S0 [] 1 1 E20 ['B', 'O', 'Y', 'P'] [['B', 'G', 'O', 'R']] rfl ((calc_eq_fastP ['Y', 'P', 'O', 'B'] ['B', 'G', 'O', 'R'] (by decide) (by decide)).trans (by decide)) (by decide) pe20 rfl nx20 (by decide) (by decide) (by decide)).trans ?_
  refine Eq.trans (step_lift ['B', 'G', 'O', 'R'] (?_ : loopRun (honest ['Y', 'P', 'O', 'B']) 6 (some ['B', 'O', 'Y', 'P']) E20 [['B', 'G', 'O', 'R']] = (RunResult.solved ['Y', 'P', 'O', 'B'] 3, [['B', 'O', 'Y', 'P'], ['Y', 'P', 'O', 'B']]))) rfl
  refine (loopRun_step ['Y', 'P', 'O', 'B'] 6 5 ['B', 'O', 'Y', 'P'] E20 [['B', 'G', 'O', 'R']] 4 0 E293 ['Y', 'P', 'O', 'B'] [['B', 'G', 'O', 'R'], ['B', 'O', 'Y', 'P']] rfl ((calc_eq_fastP ['Y', 'P', 'O', 'B'] ['B', 'O', 'Y', 'P'] (by decide) (by decide)).trans (by decide)) (by decide) pe293 rfl nx293 (by decide) (by decide) (by decide)).trans ?_
  refine Eq.trans (step_lift ['B', 'O', 'Y', 'P'] (?_ : loopRun (honest ['Y', 'P', 'O', 'B']) 5 (some ['Y', 'P', 'O', 'B']) E293 [['B', 'G', 'O', 'R'], ['B', 'O', 'Y', 'P']] = (RunResult.solved ['Y', 'P', 'O', 'B'] 3, [['Y', 'P', 'O', 'B']]))) rfl
  exact loopRun_last ['Y', 'P', 'O', 'B'] 5 4 E293 [['B', 'G', 'O', 'R'], ['B', 'O', 'Y', 'P']] rfl rfl (by decide)

lemma rs295 : loopRun (honest ['Y', 'P', 'O', 'G']) 7 none S0 [] =
    (RunResult.solved ['Y', 'P', 'O', 'G'] 4, [['B', 'G', 'O', 'R'], ['B', 'O', 'Y', 'P'], ['G', 'P', 'O', 'Y'], ['Y', 'P', 'O', 'G']]) := by
  refine (loopRun_none' (honest ['Y', 'P', 'O', 'G']) 7 S0 []).trans ?_
  refine (loopRun_step ['Y', 'P', 'O', 'G'] 7 6 ['B', 'G', 'O', 'R'] S0 [] 1 1 E20 ['B', 'O', 'Y', 'P'] [['B', 'G', 'O', 'R']] rfl ((calc_eq_fastP ['Y', 'P', 'O', 'G'] ['B', 'G', 'O', 'R'] (by decide) (by decide)).trans (by decide)) (by decide) pe20 rfl nx20 (by decide) (by decide) (by decide)).trans ?_
  refine Eq.trans (step_lift ['B', 'G', 'O', 'R'] (?_ : loopRun (honest ['Y', 'P', 'O', 'G']) 6 (some ['B', 'O', 'Y', 'P']) E20 [['B', 'G', 'O', 'R']] = (RunResult.solved ['Y', 'P', 'O', 'G'] 4, [['B', 'O', 'Y', 'P'], ['G', 'P', 'O', 'Y'], ['Y', 'P', 'O', 'G']]))) rfl
  refine (loopRun_step ['Y', 'P', 'O', 'G'] 6 5 ['B', 'O', 'Y', 'P'] E20 [['B', 'G', 'O', 'R']] 3 0 E114 ['G', 'P', 'O', 'Y'] [['B', 'G', 'O', 'R'], ['B', 'O', 'Y', 'P']] rfl ((calc_eq_fastP ['Y', 'P', 'O', 'G'] ['B', 'O', 'Y', 'P'] (by decide) (by decide)).trans (by decide)) (by decide) pe114 rfl nx114 (by decide) (by decide) (by decide)).trans ?_
  refine Eq.trans (step_lift ['B', 'O', 'Y', 'P'] (?_ : loopRun (honest ['Y', 'P', 'O', 'G']) 5 (some ['G', 'P', 'O', 'Y']) E114 [['B', 'G', 'O', 'R'], ['B', 'O', 'Y', 'P']] = (RunResult.solved ['Y', 'P', 'O', 'G'] 4, [['G', 'P', 'O', 'Y'], ['Y', 'P', 'O', 'G']]))) rfl
  refine (loopRun_step ['Y', 'P', 'O', 'G'] 5 4 ['G', 'P', 'O', 'Y'] E114 [['B', 'G', 'O', 'R'], ['B', 'O', 'Y', 'P']] 2 2 [['Y', 'P', 'O', 'G']] ['Y', 'P', 'O', 'G'] [['B', 'G', 'O', 'R'], ['B', 'O', 'Y', 'P'], ['G', 'P', 'O', 'Y']] rfl ((calc_eq_fastP ['Y', 'P', 'O', 'G'] ['G', 'P', 'O', 'Y'] (by decide) (by decide)).trans (by decide)) (by decide) pe294 rfl (findNextGuess_singleton ['Y', 'P', 'O', 'G'] [['B', 'G', 'O', 'R'], ['B', 'O', 'Y', 'P'], ['G', 'P', 'O', 'Y']]) (by decide) (by decide) (by decide)).trans ?_
  refine Eq.trans (step_lift ['G', 'P', 'O', 'Y'] (?_ : loopRun (honest ['Y', 'P', 'O', 'G']) 4 (some ['Y', 'P', 'O', 'G']) [['Y', 'P', 'O', 'G']] [['B', 'G', 'O', 'R'], ['B', 'O', 'Y', 'P'], ['G', 'P', 'O', 'Y']] = (RunResult.solved ['Y', 'P', 'O', 'G'] 4, [['Y', 'P', 'O', 'G']]))) rfl
  exact loopRun_last ['Y', 'P', 'O', 'G'] 4 3 [['Y', 'P', 'O', 'G']] [['B', 'G', 'O', 'R'], ['B', 'O', 'Y', 'P'], ['G', 'P', 'O', 'Y']] rfl rfl (by decide)

lemma rs296 : loopRun (honest ['Y', 'P', 'O', 'R']) 7 none S0 [] =
    (RunResult.solved ['Y', 'P', 'O', 'R'] 3, [['B', 'G', 'O', 'R'], ['B', 'G', 'Y', 'P'], ['Y', 'P', 'O', 'R']]) := by
  refine (loopRun_none' (honest ['Y', 'P', 'O', 'R']) 7 S0 []).trans ?_
  refine (loopRun_step ['Y', 'P', 'O', 'R'] 7 6 ['B', 'G', 'O', 'R'] S0 [] 0 2 E8 ['B', 'G', 'Y', 'P'] [['B', 'G', 'O', 'R']] rfl ((calc_eq_fastP ['Y', 'P', 'O', 'R'] ['B', 'G', 'O', 'R'] (by decide) (by decide)).trans (by decide)) (by decide) pe8 rfl nx8 (by decide) (by decide) (by decide)).trans ?_
  refine Eq.trans (step_lift ['B', 'G', 'O', 'R'] (?_ : loopRun (honest ['Y', 'P', 'O', 'R']) 6 (some ['B', 'G', 'Y', 'P']) E8 [['B', 'G', 'O', 'R']] = (RunResult.solved ['Y', 'P', 'O', 'R'] 3, [['B', 'G', 'Y', 'P'], ['Y', 'P', 'O', 'R']]))) rfl
  refine (loopRun_step ['Y', 'P', 'O', 'R'] 6 5 ['B', 'G', 'Y', 'P'] E8 [['B', 'G', 'O', 'R']] 2 0 E295 ['Y', 'P', 'O', 'R'] [['B', 'G', 'O', 'R'], ['B', 'G', 'Y', 'P']] rfl ((calc_eq_fastP ['Y', 'P', 'O', 'R'] ['B', 'G', 'Y', 'P'] (by decide) (by decide)).trans (by decide)) (by decide) pe295 rfl nx295 (by decide) (by decide) (by decide)).trans ?_
  refine Eq.trans (step_lift ['B', 'G', 'Y', 'P'] (?_ : loopRun (honest ['Y', 'P', 'O', 'R']) 5 (some ['Y', 'P', 'O', 'R']) E295 [['B', 'G', 'O', 'R'], ['B', 'G', 'Y', 'P']] = (RunResult.solved ['Y', 'P', 'O', 'R'] 3, [['Y', 'P', 'O', 'R']]))) rfl
  exact loopRun_last ['Y', 'P', 'O', 'R'] 5 4 E295 [['B', 'G', 'O', 'R'], ['B', 'G', 'Y', 'P']] rfl rfl (by decide)

lemma rs297 : loopRun (honest ['Y', 'P', 'R', 'B']) 7 none S0 [] =
    (RunResult.solved ['Y', 'P', 'R', 'B'] 5, [['B', 'G', 'O', 'R'], ['G', 'Y', 'R', 'P'], ['G', 'B', 'P', 'Y'], ['Y', 'O', 'G', 'P'], ['Y', 'P', 'R', 'B']]) := by
  refine (loopRun_none' (honest ['Y', 'P', 'R', 'B']) 7 S0 []).trans ?_
  refine (loopRun_step ['Y', 'P', 'R', 'B'] 7 6 ['B', 'G', 'O', 'R'] S0 [] 2 0 E72 ['G', 'Y', 'R', 'P'] [['B', 'G', 'O', 'R']] rfl ((calc_eq_fastP ['Y', 'P', 'R', 'B'] ['B', 'G', 'O', 'R'] (by decide) (by decide)).trans (by decide)) (by decide) pe72 rfl nx72 (by decide) (by decide) (by decide)).trans ?_
  refine Eq.trans (step_lift ['B', 'G', 'O', 'R'] (?_ : loopRun (honest ['Y', 'P', 'R', 'B']) 6 (some ['G', 'Y', 'R', 'P']) E72 [['B', 'G', 'O', 'R']] = (RunResult.solved ['Y', 'P', 'R', 'B'] 5, [['G', 'Y', 'R', 'P'], ['G', 'B', 'P', 'Y'], ['Y', 'O', 'G', 'P'], ['Y', 'P', 'R', 'B']]))) rfl
  refine (loopRun_step ['Y', 'P', 'R', 'B'] 6 5 ['G', 'Y', 'R', 'P'] E72 [['B', 'G', 'O', 'R']] 2 1 E78 ['G', 'B', 'P', 'Y'] [['B', 'G', 'O', 'R'], ['G', 'Y', 'R', 'P']] rfl ((calc_eq_fastP ['Y', 'P', 'R', 'B'] ['G', 'Y', 'R', 'P'] (by decide) (by decide)).trans (by decide)) (by decide) pe78 rfl nx78 (by decide) (by decide) (by decide)).trans ?_
  refine Eq.trans (step_lift ['G', 'Y', 'R', 'P'] (?_ : loopRun (honest ['Y', 'P', 'R', 'B']) 5 (some ['G', 'B', 'P', 'Y']) E78 [['B', 'G', 'O', 'R'], ['G', 'Y', 'R', 'P']] = (RunResult.solved ['Y', 'P', 'R', 'B'] 5, [['G', 'B', 'P', 'Y'], ['Y', 'O', 'G', 'P'], ['Y', 'P', 'R', 'B']]))) rfl
  refine (loopRun_step ['Y', 'P', 'R', 'B'] 5 4 ['G', 'B', 'P', 'Y'] E78 [['B', 'G', 'O', 'R'], ['G', 'Y', 'R', 'P']] 3 0 E268 ['Y', 'O', 'G', 'P'] [['B', 'G', 'O', 'R'], ['G', 'Y', 'R', 'P'], ['G', 'B', 'P', 'Y']] rfl ((calc_eq_fastP ['Y', 'P', 'R', 'B'] ['G', 'B', 'P', 'Y'] (by decide) (by decide)).trans (by decide)) (by decide) pe268 rfl nx268 (by decide) (by decide) (by decide)).trans ?_
  refine Eq.trans (step_lift ['G', 'B', 'P', 'Y'] (?_ : loopRun (honest ['Y', 'P', 'R', 'B']) 4 (some ['Y', 'O', 'G', 'P']) E268 [['B', 'G', 'O', 'R'], ['G', 'Y', 'R', 'P'], ['G', 'B', 'P', 'Y']] = (RunResult.solved ['Y', 'P', 'R', 'B'] 5, [['Y', 'O', 'G', 'P'], ['Y', 'P', 'R', 'B']]))) rfl
  refine (loopRun_step ['Y', 'P', 'R', 'B'] 4 3 ['Y', 'O', 'G', 'P'] E268 [['B', 'G', 'O', 'R'], ['G', 'Y', 'R', 'P'], ['G', 'B', 'P', 'Y']] 1 1 [['Y', 'P', 'R', 'B']] ['Y', 'P', 'R', 'B'] [['B', 'G', 'O', 'R'], ['G', 'Y', 'R', 'P'], ['G', 'B', 'P', 'Y'], ['Y', 'O', 'G', 'P']] rfl ((calc_eq_fastP ['Y', 'P', 'R', 'B'] ['Y', 'O', 'G', 'P'] (by decide) (by decide)).trans (by decide)) (by decide) pe296 rfl (findNextGuess_singleton ['Y', 'P', 'R', 'B'] [['B', 'G', 'O', 'R'], ['G', 'Y', 'R', 'P'], ['G', 'B', 'P', 'Y'], ['Y', 'O', 'G', 'P']]) (by decide) (by decide) (by decide)).trans ?_
  refine Eq.trans (step_lift ['Y', 'O', 'G', 'P'] (?_ : loopRun (honest ['Y', 'P', 'R', 'B']) 3 (some ['Y', 'P', 'R', 'B']) [['Y', 'P', 'R', 'B']] [['B', 'G', 'O', 'R'], ['G', 'Y', 'R', 'P'], ['G', 'B', 'P', 'Y'], ['Y', 'O', 'G', 'P']] = (RunResult.solved ['Y', 'P', 'R', 'B'] 5, [['Y', 'P', 'R', 'B']]))) rfl
  exact loopRun_last ['Y', 'P', 'R', 'B'] 3 2 [['Y', 'P', 'R', 'B']] [['B', 'G', 'O', 'R'], ['G', 'Y', 'R', 'P'], ['G', 'B', 'P', 'Y'], ['Y', 'O', 'G', 'P']] rfl rfl (by decide)

lemma rs298 : loopRun (honest ['Y', 'P', 'R', 'G']) 7 none S0 [] =
    (RunResult.solved ['Y', 'P', 'R', 'G'] 4, [['B', 'G', 'O', 'R'], ['G', 'Y', 'R', 'P'], ['G', 'R', 'P', 'Y'], ['Y', 'P', 'R', 'G']]) := by
  refine (loopRun_none' (honest ['Y', 'P', 'R', 'G']) 7 S0 []).trans ?_
  refine (loopRun_step ['Y', 'P', 'R', 'G'] 7 6 ['B', 'G', 'O', 'R'] S0 [] 2 0 E72 ['G', 'Y', 'R', 'P'] [['B', 'G', 'O', 'R']] rfl ((calc_eq_fastP ['Y', 'P', 'R', 'G'] ['B', 'G', 'O', 'R'] (by decide) (by decide)).trans (by decide)) (by decide) pe72 rfl nx72 (by decide) (by decide) (by decide)).trans ?_
  refine Eq.trans (step_lift ['B', 'G', 'O', 'R'] (?_ : loopRun (honest ['Y', 'P', 'R', 'G']) 6 (some ['G', 'Y', 'R', 'P']) E72 [['B', 'G', 'O', 'R']] = (RunResult.solved ['Y', 'P', 'R', 'G'] 4, [['G', 'Y', 'R', 'P'], ['G', 'R', 'P', 'Y'], ['Y', 'P', 'R', 'G']]))) rfl
  refine (loopRun_step ['Y', 'P', 'R', 'G'] 6 5 ['G', 'Y', 'R', 'P'] E72 [['B', 'G', 'O', 'R']] 3 1 E99 ['G', 'R', 'P', 'Y'] [['B', 'G', 'O', 'R'], ['G', 'Y', 'R', 'P']] rfl ((calc_eq_fastP ['Y', 'P', 'R', 'G'] ['G', 'Y', 'R', 'P'] (by decide) (by decide)).trans (by decide)) (by decide) pe99 rfl nx99 (by decide) (by decide) (by decide)).trans ?_
  refine Eq.trans (step_lift ['G', 'Y', 'R', 'P'] (?_ : loopRun (honest ['Y', 'P', 'R', 'G']) 5 (some ['G', 'R', 'P', 'Y']) E99 [['B', 'G', 'O', 'R'], ['G', 'Y', 'R', 'P']] = (RunResult.solved ['Y', 'P', 'R', 'G'] 4, [['G', 'R', 'P', 'Y'], ['Y', 'P', 'R', 'G']]))) rfl
  refine (loopRun_step ['Y', 'P', 'R', 'G'] 5 4 ['G', 'R', 'P', 'Y'] E99 [['B', 'G', 'O', 'R'], ['G', 'Y', 'R', 'P']] 4 0 [['Y', 'P', 'R', 'G']] ['Y', 'P', 'R', 'G'] [['B', 'G', 'O', 'R'], ['G', 'Y', 'R', 'P'], ['G', 'R', 'P', 'Y']] rfl ((calc_eq_fastP ['Y', 'P', 'R', 'G'] ['G', 'R', 'P', 'Y'] (by decide) (by decide)).trans (by decide)) (by decide) pe297 rfl (findNextGuess_singleton ['Y', 'P', 'R', 'G'] [['B', 'G', 'O', 'R'], ['G', 'Y', 'R', 'P'], ['G', 'R', 'P', 'Y']]) (by decide) (by decide) (by decide)).trans ?_
  refine Eq.trans (step_lift ['G', 'R', 'P', 'Y'] (?_ : loopRun (honest ['Y', 'P', 'R', 'G']) 4 (some ['Y', 'P', 'R', 'G']) [['Y', 'P', 'R', 'G']] [['B', 'G', 'O', 'R'], ['G', 'Y', 'R', 'P'], ['G', 'R', 'P', 'Y']] = (RunResult.solved ['Y', 'P', 'R', 'G'] 4, [['Y', 'P', 'R', 'G']]))) rfl
  exact loopRun_last ['Y', 'P', 'R', 'G'] 4 3 [['Y', 'P', 'R', 'G']] [['B', 'G', 'O', 'R'], ['G', 'Y', 'R', 'P'], ['G', 'R', 'P', 'Y']] rfl rfl (by decide)

lemma rs299 : loopRun (honest ['Y', 'P', 'R', 'O']) 7 none S0 [] =
    (RunResult.solved ['Y', 'P', 'R', 'O'] 5, [['B', 'G', 'O', 'R'], ['G', 'Y', 'R', 'P'], ['G', 'B', 'P', 'Y'], ['O', 'R', 'Y', 'P'], ['Y', 'P', 'R', 'O']]) := by
  refine (loopRun_none' (honest ['Y', 'P', 'R', 'O']) 7 S0 []).trans ?_
  refine (loopRun_step ['Y', 'P', 'R', 'O'] 7 6 ['B', 'G', 'O', 'R'] S0 [] 2 0 E72 ['G', 'Y', 'R', 'P'] [['B', 'G', 'O', 'R']] rfl ((calc_eq_fastP ['Y', 'P', 'R', 'O'] ['B', 'G', 'O', 'R'] (by decide) (by decide)).trans (by decide)) (by decide) pe72 rfl nx72 (by decide) (by decide) (by decide)).trans ?_
  refine Eq.trans (step_lift ['B', 'G', 'O', 'R'] (?_ : loopRun (honest ['Y', 'P', 'R', 'O']) 6 (some ['G', 'Y', 'R', 'P']) E72 [['B', 'G', 'O', 'R']] = (RunResult.solved ['Y', 'P', 'R', 'O'] 5, [['G', 'Y', 'R', 'P'], ['G', 'B', 'P', 'Y'], ['O', 'R', 'Y', 'P'], ['Y', 'P', 'R', 'O']]))) rfl
  refine (loopRun_step ['Y', 'P', 'R', 'O'] 6 5 ['G', 'Y', 'R', 'P'] E72 [['B', 'G', 'O', 'R']] 2 1 E78 ['G', 'B', 'P', 'Y'] [['B', 'G', 'O', 'R'], ['G', 'Y', 'R', 'P']] rfl ((calc_eq_fastP ['Y', 'P', 'R', 'O'] ['G', 'Y', 'R', 'P'] (by decide) (by decide)).trans (by decide)) (by decide) pe78 rfl nx78 (by decide) (by decide) (by decide)).trans ?_
  refine Eq.trans (step_lift ['G', 'Y', 'R', 'P'] (?_ : loopRun (honest ['Y', 'P', 'R', 'O']) 5 (some ['G', 'B', 'P', 'Y']) E78 [['B', 'G', 'O', 'R'], ['G', 'Y', 'R', 'P']] = (RunResult.solved ['Y', 'P', 'R', 'O'] 5, [['G', 'B', 'P', 'Y'], ['O', 'R', 'Y', 'P'], ['Y', 'P', 'R', 'O']]))) rfl
  refine (loopRun_step ['Y', 'P', 'R', 'O'] 5 4 ['G', 'B', 'P', 'Y'] E78 [['B', 'G', 'O', 'R'], ['G', 'Y', 'R', 'P']] 2 0 E155 ['O', 'R', 'Y', 'P'] [['B', 'G', 'O', 'R'], ['G', 'Y', 'R', 'P'], ['G', 'B', 'P', 'Y']] rfl ((calc_eq_fastP ['Y', 'P', 'R', 'O'] ['G', 'B', 'P', 'Y'] (by decide) (by decide)).trans (by decide)) (by decide) pe155 rfl nx155 (by decide) (by decide) (by decide)).trans ?_
  refine Eq.trans (step_lift ['G', 'B', 'P', 'Y'] (?_ : loopRun (honest ['Y', 'P', 'R', 'O']) 4 (some ['O', 'R', 'Y', 'P']) E155 [['B', 'G', 'O', 'R'], ['G', 'Y', 'R', 'P'], ['G', 'B', 'P', 'Y']] = (RunResult.solved ['Y', 'P', 'R', 'O'] 5, [['O', 'R', 'Y', 'P'], ['Y', 'P', 'R', 'O']]))) rfl
  refine (loopRun_step ['Y', 'P', 'R', 'O'] 4 3 ['O', 'R', 'Y', 'P'] E155 [['B', 'G', 'O', 'R'], ['G', 'Y', 'R', 'P'], ['G', 'B', 'P', 'Y']] 4 0 [['Y', 'P', 'R', 'O']] ['Y', 'P', 'R', 'O'] [['B', 'G', 'O', 'R'], ['G', 'Y', 'R', 'P'], ['G', 'B', 'P', 'Y'], ['O', 'R', 'Y', 'P']] rfl ((calc_eq_fastP ['Y', 'P', 'R', 'O'] ['O', 'R', 'Y', 'P'] (by decide) (by decide)).trans (by decide)) (by decide) pe298 rfl (findNextGuess_singleton ['Y', 'P', 'R', 'O'] [['B', 'G', 'O', 'R'], ['G', 'Y', 'R', 'P'], ['G', 'B', 'P', 'Y'], ['O', 'R', 'Y', 'P']]) (by decide) (by decide) (by decide)).trans ?_
  refine Eq.trans (step_lift ['O', 'R', 'Y', 'P'] (?_ : loopRun (honest ['Y', 'P', 'R', 'O']) 3 (some ['Y', 'P', 'R', 'O']) [['Y', 'P', 'R', 'O']] [['B', 'G', 'O', 'R'], ['G', 'Y', 'R', 'P'], ['G', 'B', 'P', 'Y'], ['O', 'R', 'Y', 'P']] = (RunResult.solved ['Y', 'P', 'R', 'O'] 5, [['Y', 'P', 'R', 'O']]))) rfl
  exact loopRun_last ['Y', 'P', 'R', 'O'] 3 2 [['Y', 'P', 'R', 'O']] [['B', 'G', 'O', 'R'], ['G', 'Y', 'R', 'P'], ['G', 'B', 'P', 'Y'], ['O', 'R', 'Y', 'P']] rfl rfl (by decide)

lemma rs300 : loopRun (honest ['P', 'B', 'G', 'O']) 7 none S0 [] =
    (RunResult.solved ['P', 'B', 'G', 'O'] 5, [['B', 'G', 'O', 'R'], ['G', 'O', 'R', 'Y'], ['O', 'B', 'P', 'G'], ['O', 'P', 'G', 'B'], ['P', 'B', 'G', 'O']]) := by
  refine (loopRun_none' (honest ['P', 'B', 'G', 'O']) 7 S0 []).trans ?_
  refine (loopRun_step ['P', 'B', 'G', 'O'] 7 6 ['B', 'G', 'O', 'R'] S0 [] 3 0 E65 ['G', 'O', 'R', 'Y'] [['B', 'G', 'O', 'R']] rfl ((calc_eq_fastP ['P', 'B', 'G', 'O'] ['B', 'G', 'O', 'R'] (by decide) (by decide)).trans (by decide)) (by decide) pe65 rfl nx65 (by decide) (by decide) (by decide)).trans ?_
  refine Eq.trans (step_lift ['B', 'G', 'O', 'R'] (?_ : loopRun (honest ['P', 'B', 'G', 'O']) 6 (some ['G', 'O', 'R', 'Y']) E65 [['B', 'G', 'O', 'R']] = (RunResult.solved ['P', 'B', 'G', 'O'] 5, [['G', 'O', 'R', 'Y'], ['O', 'B', 'P', 'G'], ['O', 'P', 'G', 'B'], ['P', 'B', 'G', 'O']]))) rfl
  refine (loopRun_step ['P', 'B', 'G', 'O'] 6 5 ['G', 'O', 'R', 'Y'] E65 [['B', 'G', 'O', 'R']] 2 0 E123 ['O', 'B', 'P', 'G'] [['B', 'G', 'O', 'R'], ['G', 'O', 'R', 'Y']] rfl ((calc_eq_fastP ['P', 'B', 'G', 'O'] ['G', 'O', 'R', 'Y'] (by decide) (by decide)).trans (by decide)) (by decide) pe123 rfl nx123 (by decide) (by decide) (by decide)).trans ?_
  refine Eq.trans (step_lift ['G', 'O', 'R', 'Y'] (?_ : loopRun (honest ['P', 'B', 'G', 'O']) 5 (some ['O', 'B', 'P', 'G']) E123 [['B', 'G', 'O', 'R'], ['G', 'O', 'R', 'Y']] = (RunResult.solved ['P', 'B', 'G', 'O'] 5, [['O', 'B', 'P', 'G'], ['O', 'P', 'G', 'B'], ['P', 'B', 'G', 'O']]))) rfl
  refine (loopRun_step ['P', 'B', 'G', 'O'] 5 4 ['O', 'B', 'P', 'G'] E123 [['B', 'G', 'O', 'R'], ['G', 'O', 'R', 'Y']] 3 1 E174 ['O', 'P', 'G', 'B'] [['B', 'G', 'O', 'R'], ['G', 'O', 'R', 'Y'], ['O', 'B', 'P', 'G']] rfl ((calc_eq_fastP ['P', 'B', 'G', 'O'] ['O', 'B', 'P', 'G'] (by decide) (by decide)).trans (by decide)) (by decide) pe174 rfl nx174 (by decide) (by decide) (by decide)).trans ?_
  refine Eq.trans (step_lift ['O', 'B', 'P', 'G'] (?_ : loopRun (honest ['P', 'B', 'G', 'O']) 4 (some ['O', 'P', 'G', 'B']) E174 [['B', 'G', 'O', 'R'], ['G', 'O', 'R', 'Y'], ['O', 'B', 'P', 'G']] = (RunResult.solved ['P', 'B', 'G', 'O'] 5, [['O', 'P', 'G', 'B'], ['P', 'B', 'G', 'O']]))) rfl
  refine (loopRun_step ['P', 'B', 'G', 'O'] 4 3 ['O', 'P', 'G', 'B'] E174 [['B', 'G', 'O', 'R'], ['G', 'O', 'R', 'Y'], ['O', 'B', 'P', 'G']] 3 1 [['P', 'B', 'G', 'O']] ['P', 'B', 'G', 'O'] [['B', 'G', 'O', 'R'], ['G', 'O', 'R', 'Y'], ['O', 'B', 'P', 'G'], ['O', 'P', 'G', 'B']] rfl ((calc_eq_fastP ['P', 'B', 'G', 'O'] ['O', 'P', 'G', 'B'] (by decide) (by decide)).trans (by decide)) (by decide) pe299 rfl (findNextGuess_singleton ['P', 'B', 'G', 'O'] [['B', 'G', 'O', 'R'], ['G', 'O', 'R', 'Y'], ['O', 'B', 'P', 'G'], ['O', 'P', 'G', 'B']]) (by decide) (by decide) (by decide)).trans ?_
  refine Eq.trans (step_lift ['O', 'P', 'G', 'B'] (?_ : loopRun (honest ['P', 'B', 'G', 'O']) 3 (some ['P', 'B', 'G', 'O']) [['P', 'B', 'G', 'O']] [['B', 'G', 'O', 'R'], ['G', 'O', 'R', 'Y'], ['O', 'B', 'P', 'G'], ['O', 'P', 'G', 'B']] = (RunResult.solved ['P', 'B', 'G', 'O'] 5, [['P', 'B', 'G', 'O']]))) rfl
  exact loopRun_last ['P', 'B', 'G', 'O'] 3 2 [['P', 'B', 'G', 'O']] [['B', 'G', 'O', 'R'], ['G', 'O', 'R', 'Y'], ['O', 'B', 'P', 'G'], ['O', 'P', 'G', 'B']] rfl rfl (by decide)

lemma rs301 : loopRun (honest ['P', 'B', 'G', 'R']) 7 none S0 [] =
    (RunResult.solved ['P', 'B', 'G', 'R'] 5, [['B', 'G', 'O', 'R'], ['B', 'O', 'R', 'Y'], ['G', 'P', 'O', 'B'], ['R', 'G', 'B', 'P'], ['P', 'B', 'G', 'R']]) := by
  refine (loopRun_none' (honest ['P', 'B', 'G', 'R']) 7 S0 []).trans ?_
  refine (loopRun_step ['P', 'B', 'G', 'R'] 7 6 ['B', 'G', 'O', 'R'] S0 [] 2 1 E13 ['B', 'O', 'R', 'Y'] [['B', 'G', 'O', 'R']] rfl ((calc_eq_fastP ['P', 'B', 'G', 'R'] ['B', 'G', 'O', 'R'] (by decide) (by decide)).trans (by decide)) (by decide) pe13 rfl nx13 (by decide) (by decide) (by decide)).trans ?_
  refine Eq.trans (step_lift ['B', 'G', 'O', 'R'] (?_ : loopRun (honest ['P', 'B', 'G', 'R']) 6 (some ['B', 'O', 'R', 'Y']) E13 [['B', 'G', 'O', 'R']] = (RunResult.solved ['P', 'B', 'G', 'R'] 5, [['B', 'O', 'R', 'Y'], ['G', 'P', 'O', 'B'], ['R', 'G', 'B', 'P'], ['P', 'B', 'G', 'R']]))) rfl
  refine (loopRun_step ['P', 'B', 'G', 'R'] 6 5 ['B', 'O', 'R', 'Y'] E13 [['B', 'G', 'O', 'R']] 2 0 E62 ['G', 'P', 'O', 'B'] [['B', 'G', 'O', 'R'], ['B', 'O', 'R', 'Y']] rfl ((calc_eq_fastP ['P', 'B', 'G', 'R'] ['B', 'O', 'R', 'Y'] (by decide) (by decide)).trans (by decide)) (by decide) pe62 rfl nx62 (by decide) (by decide) (by decide)).trans ?_
  refine Eq.trans (step_lift ['B', 'O', 'R', 'Y'] (?_ : loopRun (honest ['P', 'B', 'G', 'R']) 5 (some ['G', 'P', 'O', 'B']) E62 [['B', 'G', 'O', 'R'], ['B', 'O', 'R', 'Y']] = (RunResult.solved ['P', 'B', 'G', 'R'] 5, [['G', 'P', 'O', 'B'], ['R', 'G', 'B', 'P'], ['P', 'B', 'G', 'R']]))) rfl
  refine (loopRun_step ['P', 'B', 'G', 'R'] 5 4 ['G', 'P', 'O', 'B'] E62 [['B', 'G', 'O', 'R'], ['B', 'O', 'R', 'Y']] 3 0 E195 ['R', 'G', 'B', 'P'] [['B', 'G', 'O', 'R'], ['B', 'O', 'R', 'Y'], ['G', 'P', 'O', 'B']] rfl ((calc_eq_fastP ['P', 'B', 'G', 'R'] ['G', 'P', 'O', 'B'] (by decide) (by decide)).trans (by decide)) (by decide) pe195 rfl nx195 (by decide) (by decide) (by decide)).trans ?_
  refine Eq.trans (step_lift ['G', 'P', 'O', 'B'] (?_ : loopRun (honest ['P', 'B', 'G', 'R']) 4 (some ['R', 'G', 'B', 'P']) E195 [['B', 'G', 'O', 'R'], ['B', 'O', 'R', 'Y'], ['G', 'P', 'O', 'B']] = (RunResult.solved ['P', 'B', 'G', 'R'] 5, [['R', 'G', 'B', 'P'], ['P', 'B', 'G', 'R']]))) rfl
  refine (loopRun_step ['P', 'B', 'G', 'R'] 4 3 ['R', 'G', 'B', 'P'] E195 [['B', 'G', 'O', 'R'], ['B', 'O', 'R', 'Y'], ['G', 'P', 'O', 'B']] 4 0 [['P', 'B', 'G', 'R']] ['P', 'B', 'G', 'R'] [['B', 'G', 'O', 'R'], ['B', 'O', 'R', 'Y'], ['G', 'P', 'O', 'B'], ['R', 'G', 'B', 'P']] rfl ((calc_eq_fastP ['P', 'B', 'G', 'R'] ['R', 'G', 'B', 'P'] (by decide) (by decide)).trans (by decide)) (by decide) pe300 rfl (findNextGuess_singleton ['P', 'B', 'G', 'R'] [['B', 'G', 'O', 'R'], ['B', 'O', 'R', 'Y'], ['G', 'P', 'O', 'B'], ['R', 'G', 'B', 'P']]) (by decide) (by decide) (by decide)).trans ?_
  refine Eq.trans (step_lift ['R', 'G', 'B', 'P'] (?_ : loopRun (honest ['P', 'B', 'G', 'R']) 3 (some ['P', 'B', 'G', 'R']) [['P', 'B', 'G', 'R']] [['B', 'G', 'O', 'R'], ['B', 'O', 'R', 'Y'], ['G', 'P', 'O', 'B'], ['R', 'G', 'B', 'P']] = (RunResult.solved ['P', 'B', 'G', 'R'] 5, [['P', 'B', 'G', 'R']]))) rfl
  exact loopRun_last ['P', 'B', 'G', 'R'] 3 2 [['P', 'B', 'G', 'R']] [['B', 'G', 'O', 'R'], ['B', 'O', 'R', 'Y'], ['G', 'P', 'O', 'B'], ['R', 'G', 'B', 'P']] rfl rfl (by decide)

lemma rs302 : loopRun (honest ['P', 'B', 'G', 'Y']) 7 none S0 [] =
    (RunResult.solved ['P', 'B', 'G', 'Y'] 5, [['B', 'G', 'O', 'R'], ['G', 'Y', 'R', 'P'], ['R', 'B', 'P', 'Y'], ['Y', 'B', 'P', 'G'], ['P', 'B', 'G', 'Y']]) := by
  refine (loopRun_none' (honest ['P', 'B', 'G', 'Y']) 7 S0 []).trans ?_
  refine (loopRun_step ['P', 'B', 'G', 'Y'] 7 6 ['B', 'G', 'O', 'R'] S0 [] 2 0 E72 ['G', 'Y', 'R', 'P'] [['B', 'G', 'O', 'R']] rfl ((calc_eq_fastP ['P', 'B', 'G', 'Y'] ['B', 'G', 'O', 'R'] (by decide) (by decide)).trans (by decide)) (by decide) pe72 rfl nx72 (by decide) (by decide) (by decide)).trans ?_
  refine Eq.trans (step_lift ['B', 'G', 'O', 'R'] (?_ : loopRun (honest ['P', 'B', 'G', 'Y']) 6 (some ['G', 'Y', 'R', 'P']) E72 [['B', 'G', 'O', 'R']] = (RunResult.solved ['P', 'B', 'G', 'Y'] 5, [['G', 'Y', 'R', 'P'], ['R', 'B', 'P', 'Y'], ['Y', 'B', 'P', 'G'], ['P', 'B', 'G', 'Y']]))) rfl
  refine (loopRun_step ['P', 'B', 'G', 'Y'] 6 5 ['G', 'Y', 'R', 'P'] E72 [['B', 'G', 'O', 'R']] 3 0 E158 ['R', 'B', 'P', 'Y'] [['B', 'G', 'O', 'R'], ['G', 'Y', 'R', 'P']] rfl ((calc_eq_fastP ['P', 'B', 'G', 'Y'] ['G', 'Y', 'R', 'P'] (by decide) (by decide)).trans (by decide)) (by decide) pe158 rfl nx158 (by decide) (by decide) (by decide)).trans ?_
  refine Eq.trans (step_lift ['G', 'Y', 'R', 'P'] (?_ : loopRun (honest ['P', 'B', 'G', 'Y']) 5 (some ['R', 'B', 'P', 'Y']) E158 [['B', 'G', 'O', 'R'], ['G', 'Y', 'R', 'P']] = (RunResult.solved ['P', 'B', 'G', 'Y'] 5, [['R', 'B', 'P', 'Y'], ['Y', 'B', 'P', 'G'], ['P', 'B', 'G', 'Y']]))) rfl
  refine (loopRun_step ['P', 'B', 'G', 'Y'] 5 4 ['R', 'B', 'P', 'Y'] E158 [['B', 'G', 'O', 'R'], ['G', 'Y', 'R', 'P']] 1 2 E159 ['Y', 'B', 'P', 'G'] [['B', 'G', 'O', 'R'], ['G', 'Y', 'R', 'P'], ['R', 'B', 'P', 'Y']] rfl ((calc_eq_fastP ['P', 'B', 'G', 'Y'] ['R', 'B', 'P', 'Y'] (by decide) (by decide)).trans (by decide)) (by decide) pe159 rfl nx159 (by decide) (by decide) (by decide)).trans ?_
  refine Eq.trans (step_lift ['R', 'B', 'P', 'Y'] (?_ : loopRun (honest ['P', 'B', 'G', 'Y']) 4 (some ['Y', 'B', 'P', 'G']) E159 [['B', 'G', 'O', 'R'], ['G', 'Y', 'R', 'P'], ['R', 'B', 'P', 'Y']] = (RunResult.solved ['P', 'B', 'G', 'Y'] 5, [['Y', 'B', 'P', 'G'], ['P', 'B', 'G', 'Y']]))) rfl
  refine (loopRun_step ['P', 'B', 'G', 'Y'] 4 3 ['Y', 'B', 'P', 'G'] E159 [['B', 'G', 'O', 'R'], ['G', 'Y', 'R', 'P'], ['R', 'B', 'P', 'Y']] 3 1 [['P', 'B', 'G', 'Y']] ['P', 'B', 'G', 'Y'] [['B', 'G', 'O', 'R'], ['G', 'Y', 'R', 'P'], ['R', 'B', 'P', 'Y'], ['Y', 'B', 'P', 'G']] rfl ((calc_eq_fastP ['P', 'B', 'G', 'Y'] ['Y', 'B', 'P', 'G'] (by decide) (by decide)).trans (by decide)) (by decide) pe301 rfl (findNextGuess_singleton ['P', 'B', 'G', 'Y'] [['B', 'G', 'O', 'R'], ['G', 'Y', 'R', 'P'], ['R', 'B', 'P', 'Y'], ['Y', 'B', 'P', 'G']]) (by decide) (by decide) (by decide)).trans ?_
  refine Eq.trans (step_lift ['Y', 'B', 'P', 'G'] (?_ : loopRun (honest ['P', 'B', 'G', 'Y']) 3 (some ['P', 'B', 'G', 'Y']) [['P', 'B', 'G', 'Y']] [['B', 'G', 'O', 'R'], ['G', 'Y', 'R', 'P'], ['R', 'B', 'P', 'Y'], ['Y', 'B', 'P', 'G']] = (RunResult.solved ['P', 'B', 'G', 'Y'] 5, [['P', 'B', 'G', 'Y']]))) rfl
  exact loopRun_last ['P', 'B', 'G', 'Y'] 3 2 [['P', 'B', 'G', 'Y']] [['B', 'G', 'O', 'R'], ['G', 'Y', 'R', 'P'], ['R', 'B', 'P', 'Y'], ['Y', 'B', 'P', 'G']] rfl rfl (by decide)

lemma rs303 : loopRun (honest ['P', 'B', 'O', 'G']) 7 none S0 [] =
    (RunResult.solved ['P', 'B', 'O', 'G'] 5, [['B', 'G', 'O', 'R'], ['B', 'O', 'R', 'Y'], ['G', 'P', 'O', 'B'], ['O', 'G', 'P', 'B'], ['P', 'B', 'O', 'G']]) := by
  refine (loopRun_none' (honest ['P', 'B', 'O', 'G']) 7 S0 []).trans ?_
  refine (loopRun_step ['P', 'B', 'O', 'G'] 7 6 ['B', 'G', 'O', 'R'] S0 [] 2 1 E13 ['B', 'O', 'R', 'Y'] [['B', 'G', 'O', 'R']] rfl ((calc_eq_fastP ['P', 'B', 'O', 'G'] ['B', 'G', 'O', 'R'] (by decide) (by decide)).trans (by decide)) (by decide) pe13 rfl nx13 (by decide) (by decide) (by decide)).trans ?_
  refine Eq.trans (step_lift ['B', 'G', 'O', 'R'] (?_ : loopRun (honest ['P', 'B', 'O', 'G']) 6 (some ['B', 'O', 'R', 'Y']) E13 [['B', 'G', 'O', 'R']] = (RunResult.solved ['P', 'B', 'O', 'G'] 5, [['B', 'O', 'R', 'Y'], ['G', 'P', 'O', 'B'], ['O', 'G', 'P', 'B'], ['P', 'B', 'O', 'G']]))) rfl
  refine (loopRun_step ['P', 'B', 'O', 'G'] 6 5 ['B', 'O', 'R', 'Y'] E13 [['B', 'G', 'O', 'R']] 2 0 E62 ['G', 'P', 'O', 'B'] [['B', 'G', 'O', 'R'], ['B', 'O', 'R', 'Y']] rfl ((calc_eq_fastP ['P', 'B', 'O', 'G'] ['B', 'O', 'R', 'Y'] (by decide) (by decide)).trans (by decide)) (by decide) pe62 rfl nx62 (by decide) (by decide) (by decide)).trans ?_
  refine Eq.trans (step_lift ['B', 'O', 'R', 'Y'] (?_ : loopRun (honest ['P', 'B', 'O', 'G']) 5 (some ['G', 'P', 'O', 'B']) E62 [['B', 'G', 'O', 'R'], ['B', 'O', 'R', 'Y']] = (RunResult.solved ['P', 'B', 'O', 'G'] 5, [['G', 'P', 'O', 'B'], ['O', 'G', 'P', 'B'], ['P', 'B', 'O', 'G']]))) rfl
  refine (loopRun_step ['P', 'B', 'O', 'G'] 5 4 ['G', 'P', 'O', 'B'] E62 [['B', 'G', 'O', 'R'], ['B', 'O', 'R', 'Y']] 3 1 E143 ['O', 'G', 'P', 'B'] [['B', 'G', 'O', 'R'], ['B', 'O', 'R', 'Y'], ['G', 'P', 'O', 'B']] rfl ((calc_eq_fastP ['P', 'B', 'O', 'G'] ['G', 'P', 'O', 'B'] (by decide) (by decide)).trans (by decide)) (by decide) pe143 rfl nx143 (by decide) (by decide) (by decide)).trans ?_
  refine Eq.trans (step_lift ['G', 'P', 'O', 'B'] (?_ : loopRun (honest ['P', 'B', 'O', 'G']) 4 (some ['O', 'G', 'P', 'B']) E143 [['B', 'G', 'O', 'R'], ['B', 'O', 'R', 'Y'], ['G', 'P', 'O', 'B']] = (RunResult.solved ['P', 'B', 'O', 'G'] 5, [['O', 'G', 'P', 'B'], ['P', 'B', 'O', 'G']]))) rfl
  refine (loopRun_step ['P', 'B', 'O', 'G'] 4 3 ['O', 'G', 'P', 'B'] E143 [['B', 'G', 'O', 'R'], ['B', 'O', 'R', 'Y'], ['G', 'P', 'O', 'B']] 4 0 [['P', 'B', 'O', 'G']] ['P', 'B', 'O', 'G'] [['B', 'G', 'O', 'R'], ['B', 'O', 'R', 'Y'], ['G', 'P', 'O', 'B'], ['O', 'G', 'P', 'B']] rfl ((calc_eq_fastP ['P', 'B', 'O', 'G'] ['O', 'G', 'P', 'B'] (by decide) (by decide)).trans (by decide)) (by decide) pe302 rfl (findNextGuess_singleton ['P', 'B', 'O', 'G'] [['B', 'G', 'O', 'R'], ['B', 'O', 'R', 'Y'], ['G', 'P', 'O', 'B'], ['O', 'G', 'P', 'B']]) (by decide) (by decide) (by decide)).trans ?_
  refine Eq.trans (step_lift ['O', 'G', 'P', 'B'] (?_ : loopRun (honest ['P', 'B', 'O', 'G']) 3 (some ['P', 'B', 'O', 'G']) [['P', 'B', 'O', 'G']] [['B', 'G', 'O', 'R'], ['B', 'O', 'R', 'Y'], ['G', 'P', 'O', 'B'], ['O', 'G', 'P', 'B']] = (RunResult.solved ['P', 'B', 'O', 'G'] 5, [['P', 'B', 'O', 'G']]))) rfl
  exact loopRun_last ['P', 'B', 'O', 'G'] 3 2 [['P', 'B', 'O', 'G']] [['B', 'G', 'O', 'R'], ['B', 'O', 'R', 'Y'], ['G', 'P', 'O', 'B'], ['O', 'G', 'P', 'B']] rfl rfl (by decide)

lemma rs304 : loopRun (honest ['P', 'B', 'O', 'R']) 7 none S0 [] =
    (RunResult.solved ['P', 'B', 'O', 'R'] 4, [['B', 'G', 'O', 'R'], ['B', 'G', 'R', 'Y'], ['G', 'P', 'O', 'R'], ['P', 'B', 'O', 'R']]) := by
  refine (loopRun_none' (honest ['P', 'B', 'O', 'R']) 7 S0 []).trans ?_
  refine (loopRun_step ['P', 'B', 'O', 'R'] 7 6 ['B', 'G', 'O', 'R'] S0 [] 1 2 E3 ['B', 'G', 'R', 'Y'] [['B', 'G', 'O', 'R']] rfl ((calc_eq_fastP ['P', 'B', 'O', 'R'] ['B', 'G', 'O', 'R'] (by decide) (by decide)).trans (by decide)) (by decide) pe3 rfl nx3 (by decide) (by decide) (by decide)).trans ?_
  refine Eq.trans (step_lift ['B', 'G', 'O', 'R'] (?_ : loopRun (honest ['P', 'B', 'O', 'R']) 6 (some ['B', 'G', 'R', 'Y']) E3 [['B', 'G', 'O', 'R']] = (RunResult.solved ['P', 'B', 'O', 'R'] 4, [['B', 'G', 'R', 'Y'], ['G', 'P', 'O', 'R'], ['P', 'B', 'O', 'R']]))) rfl
  refine (loopRun_step ['P', 'B', 'O', 'R'] 6 5 ['B', 'G', 'R', 'Y'] E3 [['B', 'G', 'O', 'R']] 2 0 E113 ['G', 'P', 'O', 'R'] [['B', 'G', 'O', 'R'], ['B', 'G', 'R', 'Y']] rfl ((calc_eq_fastP ['P', 'B', 'O', 'R'] ['B', 'G', 'R', 'Y'] (by decide) (by decide)).trans (by decide)) (by decide) pe113 rfl nx113 (by decide) (by decide) (by decide)).trans ?_
  refine Eq.trans (step_lift ['B', 'G', 'R', 'Y'] (?_ : loopRun (honest ['P', 'B', 'O', 'R']) 5 (some ['G', 'P', 'O', 'R']) E113 [['B', 'G', 'O', 'R'], ['B', 'G', 'R', 'Y']] = (RunResult.solved ['P', 'B', 'O', 'R'] 4, [['G', 'P', 'O', 'R'], ['P', 'B', 'O', 'R']]))) rfl
  refine (loopRun_step ['P', 'B', 'O', 'R'] 5 4 ['G', 'P', 'O', 'R'] E113 [['B', 'G', 'O', 'R'], ['B', 'G', 'R', 'Y']] 1 2 [['P', 'B', 'O', 'R']] ['P', 'B', 'O', 'R'] [['B', 'G', 'O', 'R'], ['B', 'G', 'R', 'Y'], ['G', 'P', 'O', 'R']] rfl ((calc_eq_fastP ['P', 'B', 'O', 'R'] ['G', 'P', 'O', 'R'] (by decide) (by decide)).trans (by decide)) (by decide) pe303 rfl (findNextGuess_singleton ['P', 'B', 'O', 'R'] [['B', 'G', 'O', 'R'], ['B', 'G', 'R', 'Y'], ['G', 'P', 'O', 'R']]) (by decide) (by decide) (by decide)).trans ?_
  refine Eq.trans (step_lift ['G', 'P', 'O', 'R'] (?_ : loopRun (honest ['P', 'B', 'O', 'R']) 4 (some ['P', 'B', 'O', 'R']) [['P', 'B', 'O', 'R']] [['B', 'G', 'O', 'R'], ['B', 'G', 'R', 'Y'], ['G', 'P', 'O', 'R']] = (RunResult.solved ['P', 'B', 'O', 'R'] 4, [['P', 'B', 'O', 'R']]))) rfl
  exact loopRun_last ['P', 'B', 'O', 'R'] 4 3 [['P', 'B', 'O', 'R']] [['B', 'G', 'O', 'R'], ['B', 'G', 'R', 'Y'], ['G', 'P', 'O', 'R']] rfl rfl (by decide)

lemma rs305 : loopRun (honest ['P', 'B', 'O', 'Y']) 7 none S0 [] =
    (RunResult.solved ['P', 'B', 'O', 'Y'] 4, [['B', 'G', 'O', 'R'], ['B', 'O', 'Y', 'P'], ['Y', 'P', 'O', 'B'], ['P', 'B', 'O', 'Y']]) := by
  refine (loopRun_none' (honest ['P', 'B', 'O', 'Y']) 7 S0 []).trans ?_
  refine (loopRun_step ['P', 'B', 'O', 'Y'] 7 6 ['B', 'G', 'O', 'R'] S0 [] 1 1 E20 ['B', 'O', 'Y', 'P'] [['B', 'G', 'O', 'R']] rfl ((calc_eq_fastP ['P', 'B', 'O', 'Y'] ['B', 'G', 'O', 'R'] (by decide) (by decide)).trans (by decide)) (by decide) pe20 rfl nx20 (by decide) (by decide) (by decide)).trans ?_
  refine Eq.trans (step_lift ['B', 'G', 'O', 'R'] (?_ : loopRun (honest ['P', 'B', 'O', 'Y']) 6 (some ['B', 'O', 'Y', 'P']) E20 [['B', 'G', 'O', 'R']] = (RunResult.solved ['P', 'B', 'O', 'Y'] 4, [['B', 'O', 'Y', 'P'], ['Y', 'P', 'O', 'B'], ['P', 'B', 'O', 'Y']]))) rfl
  refine (loopRun_step ['P', 'B', 'O', 'Y'] 6 5 ['B', 'O', 'Y', 'P'] E20 [['B', 'G', 'O', 'R']] 4 0 E293 ['Y', 'P', 'O', 'B'] [['B', 'G', 'O', 'R'], ['B', 'O', 'Y', 'P']] rfl ((calc_eq_fastP ['P', 'B', 'O', 'Y'] ['B', 'O', 'Y', 'P'] (by decide) (by decide)).trans (by decide)) (by decide) pe293 rfl nx293 (by decide) (by decide) (by decide)).trans ?_
  refine Eq.trans (step_lift ['B', 'O', 'Y', 'P'] (?_ : loopRun (honest ['P', 'B', 'O', 'Y']) 5 (some ['Y', 'P', 'O', 'B']) E293 [['B', 'G', 'O', 'R'], ['B', 'O', 'Y', 'P']] = (RunResult.solved ['P', 'B', 'O', 'Y'] 4, [['Y', 'P', 'O', 'B'], ['P', 'B', 'O', 'Y']]))) rfl
  refine (loopRun_step ['P', 'B', 'O', 'Y'] 5 4 ['Y', 'P', 'O', 'B'] E293 [['B', 'G', 'O', 'R'], ['B', 'O', 'Y', 'P']] 3 1 [['P', 'B', 'O', 'Y']] ['P', 'B', 'O', 'Y'] [['B', 'G', 'O', 'R'], ['B', 'O', 'Y', 'P'], ['Y', 'P', 'O', 'B']] rfl ((calc_eq_fastP ['P', 'B', 'O', 'Y'] ['Y', 'P', 'O', 'B'] (by decide) (by decide)).trans (by decide)) (by decide) pe304 rfl (findNextGuess_singleton ['P', 'B', 'O', 'Y'] [['B', 'G', 'O', 'R'], ['B', 'O', 'Y', 'P'], ['Y', 'P', 'O', 'B']]) (by decide) (by decide) (by decide)).trans ?_
  refine Eq.trans (step_lift ['Y', 'P', 'O', 'B'] (?_ : loopRun (honest ['P', 'B', 'O', 'Y']) 4 (some ['P', 'B', 'O', 'Y']) [['P', 'B', 'O', 'Y']] [['B', 'G', 'O', 'R'], ['B', 'O', 'Y', 'P'], ['Y', 'P', 'O', 'B']] = (RunResult.solved ['P', 'B', 'O', 'Y'] 4, [['P', 'B', 'O', 'Y']]))) rfl
  exact loopRun_last ['P', 'B', 'O', 'Y'] 4 3 [['P', 'B', 'O', 'Y']] [['B', 'G', 'O', 'R'], ['B', 'O', 'Y', 'P'], ['Y', 'P', 'O', 'B']] rfl rfl (by decide)

lemma rs306 : loopRun (honest ['P', 'B', 'R', 'G']) 7 none S0 [] =
    (RunResult.solved ['P', 'B', 'R', 'G'] 5, [['B', 'G', 'O', 'R'], ['G', 'O', 'R', 'Y'], ['R', 'O', 'B', 'P'], ['G', 'B', 'P', 'O'], ['P', 'B', 'R', 'G']]) := by
  refine (loopRun_none' (honest ['P', 'B', 'R', 'G']) 7 S0 []).trans ?_
  refine (loopRun_step ['P', 'B', 'R', 'G'] 7 6 ['B', 'G', 'O', 'R'] S0 [] 3 0 E65 ['G', 'O', 'R', 'Y'] [['B', 'G', 'O', 'R']] rfl ((calc_eq_fastP ['P', 'B', 'R', 'G'] ['B', 'G', 'O', 'R'] (by decide) (by decide)).trans (by decide)) (by decide) pe65 rfl nx65 (by decide) (by decide) (by decide)).trans ?_
  refine Eq.trans (step_lift ['B', 'G', 'O', 'R'] (?_ : loopRun (honest ['P', 'B', 'R', 'G']) 6 (some ['G', 'O', 'R', 'Y']) E65 [['B', 'G', 'O', 'R']] = (RunResult.solved ['P', 'B', 'R', 'G'] 5, [['G', 'O', 'R', 'Y'], ['R', 'O', 'B', 'P'], ['G', 'B', 'P', 'O'], ['P', 'B', 'R', 'G']]))) rfl
  refine (loopRun_step ['P', 'B', 'R', 'G'] 6 5 ['G', 'O', 'R', 'Y'] E65 [['B', 'G', 'O', 'R']] 1 1 E75 ['R', 'O', 'B', 'P'] [['B', 'G', 'O', 'R'], ['G', 'O', 'R', 'Y']] rfl ((calc_eq_fastP ['P', 'B', 'R', 'G'] ['G', 'O', 'R', 'Y'] (by decide) (by decide)).trans (by decide)) (by decide) pe75 rfl nx75 (by decide) (by decide) (by decide)).trans ?_
  refine Eq.trans (step_lift ['G', 'O', 'R', 'Y'] (?_ : loopRun (honest ['P', 'B', 'R', 'G']) 5 (some ['R', 'O', 'B', 'P']) E75 [['B', 'G', 'O', 'R'], ['G', 'O', 'R', 'Y']] = (RunResult.solved ['P', 'B', 'R', 'G'] 5, [['R', 'O', 'B', 'P'], ['G', 'B', 'P', 'O'], ['P', 'B', 'R', 'G']]))) rfl
  refine (loopRun_step ['P', 'B', 'R', 'G'] 5 4 ['R', 'O', 'B', 'P'] E75 [['B', 'G', 'O', 'R'], ['G', 'O', 'R', 'Y']] 3 0 E76 ['G', 'B', 'P', 'O'] [['B', 'G', 'O', 'R'], ['G', 'O', 'R', 'Y'], ['R', 'O', 'B', 'P']] rfl ((calc_eq_fastP ['P', 'B', 'R', 'G'] ['R', 'O', 'B', 'P'] (by decide) (by decide)).trans (by decide)) (by decide) pe76 rfl nx76 (by decide) (by decide) (by decide)).trans ?_
  refine Eq.trans (step_lift ['R', 'O', 'B', 'P'] (?_ : loopRun (honest ['P', 'B', 'R', 'G']) 4 (some ['G', 'B', 'P', 'O']) E76 [['B', 'G', 'O', 'R'], ['G', 'O', 'R', 'Y'], ['R', 'O', 'B', 'P']] = (RunResult.solved ['P', 'B', 'R', 'G'] 5, [['G', 'B', 'P', 'O'], ['P', 'B', 'R', 'G']]))) rfl
  refine (loopRun_step ['P', 'B', 'R', 'G'] 4 3 ['G', 'B', 'P', 'O'] E76 [['B', 'G', 'O', 'R'], ['G', 'O', 'R', 'Y'], ['R', 'O', 'B', 'P']] 2 1 [['P', 'B', 'R', 'G']] ['P', 'B', 'R', 'G'] [['B', 'G', 'O', 'R'], ['G', 'O', 'R', 'Y'], ['R', 'O', 'B', 'P'], ['G', 'B', 'P', 'O']] rfl ((calc_eq_fastP ['P', 'B', 'R', 'G'] ['G', 'B', 'P', 'O'] (by decide) (by decide)).trans (by decide)) (by decide) pe305 rfl (findNextGuess_singleton ['P', 'B', 'R', 'G'] [['B', 'G', 'O', 'R'], ['G', 'O', 'R', 'Y'], ['R', 'O', 'B', 'P'], ['G', 'B', 'P', 'O']]) (by decide) (by decide) (by decide)).trans ?_
  refine Eq.trans (step_lift ['G', 'B', 'P', 'O'] (?_ : loopRun (honest ['P', 'B', 'R', 'G']) 3 (some ['P', 'B', 'R', 'G']) [['P', 'B', 'R', 'G']] [['B', 'G', 'O', 'R'], ['G', 'O', 'R', 'Y'], ['R', 'O', 'B', 'P'], ['G', 'B', 'P', 'O']] = (RunResult.solved ['P', 'B', 'R', 'G'] 5, [['P', 'B', 'R', 'G']]))) rfl
  exact loopRun_last ['P', 'B', 'R', 'G'] 3 2 [['P', 'B', 'R', 'G']] [['B', 'G', 'O', 'R'], ['G', 'O', 'R', 'Y'], ['R', 'O', 'B', 'P'], ['G', 'B', 'P', 'O']] rfl rfl (by decide)

lemma rs307 : loopRun (honest ['P', 'B', 'R', 'O']) 7 none S0 [] =
    (RunResult.solved ['P', 'B', 'R', 'O'] 5, [['B', 'G', 'O', 'R'], ['G', 'O', 'R', 'Y'], ['R', 'O', 'B', 'P'], ['O', 'P', 'R', 'B'], ['P', 'B', 'R', 'O']]) := by
  refine (loopRun_none' (honest ['P', 'B', 'R', 'O']) 7 S0 []).trans ?_
  refine (loopRun_step ['P', 'B', 'R', 'O'] 7 6 ['B', 'G', 'O', 'R'] S0 [] 3 0 E65 ['G', 'O', 'R', 'Y'] [['B', 'G', 'O', 'R']] rfl ((calc_eq_fastP ['P', 'B', 'R', 'O'] ['B', 'G', 'O', 'R'] (by decide) (by decide)).trans (by decide)) (by decide) pe65 rfl nx65 (by decide) (by decide) (by decide)).trans ?_
  refine Eq.trans (step_lift ['B', 'G', 'O', 'R'] (?_ : loopRun (honest ['P', 'B', 'R', 'O']) 6 (some ['G', 'O', 'R', 'Y']) E65 [['B', 'G', 'O', 'R']] = (RunResult.solved ['P', 'B', 'R', 'O'] 5, [['G', 'O', 'R', 'Y'], ['R', 'O', 'B', 'P'], ['O', 'P', 'R', 'B'], ['P', 'B', 'R', 'O']]))) rfl
  refine (loopRun_step ['P', 'B', 'R', 'O'] 6 5 ['G', 'O', 'R', 'Y'] E65 [['B', 'G', 'O', 'R']] 1 1 E75 ['R', 'O', 'B', 'P'] [['B', 'G', 'O', 'R'], ['G', 'O', 'R', 'Y']] rfl ((calc_eq_fastP ['P', 'B', 'R', 'O'] ['G', 'O', 'R', 'Y'] (by decide) (by decide)).trans (by decide)) (by decide) pe75 rfl nx75 (by decide) (by decide) (by decide)).trans ?_
  refine Eq.trans (step_lift ['G', 'O', 'R', 'Y'] (?_ : loopRun (honest ['P', 'B', 'R', 'O']) 5 (some ['R', 'O', 'B', 'P']) E75 [['B', 'G', 'O', 'R'], ['G', 'O', 'R', 'Y']] = (RunResult.solved ['P', 'B', 'R', 'O'] 5, [['R', 'O', 'B', 'P'], ['O', 'P', 'R', 'B'], ['P', 'B', 'R', 'O']]))) rfl
  refine (loopRun_step ['P', 'B', 'R', 'O'] 5 4 ['R', 'O', 'B', 'P'] E75 [['B', 'G', 'O', 'R'], ['G', 'O', 'R', 'Y']] 4 0 E177 ['O', 'P', 'R', 'B'] [['B', 'G', 'O', 'R'], ['G', 'O', 'R', 'Y'], ['R', 'O', 'B', 'P']] rfl ((calc_eq_fastP ['P', 'B', 'R', 'O'] ['R', 'O', 'B', 'P'] (by decide) (by decide)).trans (by decide)) (by decide) pe177 rfl nx177 (by decide) (by decide) (by decide)).trans ?_
  refine Eq.trans (step_lift ['R', 'O', 'B', 'P'] (?_ : loopRun (honest ['P', 'B', 'R', 'O']) 4 (some ['O', 'P', 'R', 'B']) E177 [['B', 'G', 'O', 'R'], ['G', 'O', 'R', 'Y'], ['R', 'O', 'B', 'P']] = (RunResult.solved ['P', 'B', 'R', 'O'] 5, [['O', 'P', 'R', 'B'], ['P', 'B', 'R', 'O']]))) rfl
  refine (loopRun_step ['P', 'B', 'R', 'O'] 4 3 ['O', 'P', 'R', 'B'] E177 [['B', 'G', 'O', 'R'], ['G', 'O', 'R', 'Y'], ['R', 'O', 'B', 'P']] 3 1 [['P', 'B', 'R', 'O']] ['P', 'B', 'R', 'O'] [['B', 'G', 'O', 'R'], ['G', 'O', 'R', 'Y'], ['R', 'O', 'B', 'P'], ['O', 'P', 'R', 'B']] rfl ((calc_eq_fastP ['P', 'B', 'R', 'O'] ['O', 'P', 'R', 'B'] (by decide) (by decide)).trans (by decide)) (by decide) pe306 rfl (findNextGuess_singleton ['P', 'B', 'R', 'O'] [['B', 'G', 'O', 'R'], ['G', 'O', 'R', 'Y'], ['R', 'O', 'B', 'P'], ['O', 'P', 'R', 'B']]) (by decide) (by decide) (by decide)).trans ?_
  refine Eq.trans (step_lift ['O', 'P', 'R', 'B'] (?_ : loopRun (honest ['P', 'B', 'R', 'O']) 3 (some ['P', 'B', 'R', 'O']) [['P', 'B', 'R', 'O']] [['B', 'G', 'O', 'R'], ['G', 'O', 'R', 'Y'], ['R', 'O', 'B', 'P'], ['O', 'P', 'R', 'B']] = (RunResult.solved ['P', 'B', 'R', 'O'] 5, [['P', 'B', 'R', 'O']]))) rfl
  exact loopRun_last ['P', 'B', 'R', 'O'] 3 2 [['P', 'B', 'R', 'O']] [['B', 'G', 'O', 'R'], ['G', 'O', 'R', 'Y'], ['R', 'O', 'B', 'P'], ['O', 'P', 'R', 'B']] rfl rfl (by decide)

lemma rs308 : loopRun (honest ['P', 'B', 'R', 'Y']) 7 none S0 [] =
    (RunResult.solved ['P', 'B', 'R', 'Y'] 4, [['B', 'G', 'O', 'R'], ['G', 'Y', 'R', 'P'], ['G', 'B', 'P', 'Y'], ['P', 'B', 'R', 'Y']]) := by
  refine (loopRun_none' (honest ['P', 'B', 'R', 'Y']) 7 S0 []).trans ?_
  refine (loopRun_step ['P', 'B', 'R', 'Y'] 7 6 ['B', 'G', 'O', 'R'] S0 [] 2 0 E72 ['G', 'Y', 'R', 'P'] [['B', 'G', 'O', 'R']] rfl ((calc_eq_fastP ['P', 'B', 'R', 'Y'] ['B', 'G', 'O', 'R'] (by decide) (by decide)).trans (by decide)) (by decide) pe72 rfl nx72 (by decide) (by decide) (by decide)).trans ?_
  refine Eq.trans (step_lift ['B', 'G', 'O', 'R'] (?_ : loopRun (honest ['P', 'B', 'R', 'Y']) 6 (some ['G', 'Y', 'R', 'P']) E72 [['B', 'G', 'O', 'R']] = (RunResult.solved ['P', 'B', 'R', 'Y'] 4, [['G', 'Y', 'R', 'P'], ['G', 'B', 'P', 'Y'], ['P', 'B', 'R', 'Y']]))) rfl
  refine (loopRun_step ['P', 'B', 'R', 'Y'] 6 5 ['G', 'Y', 'R', 'P'] E72 [['B', 'G', 'O', 'R']] 2 1 E78 ['G', 'B', 'P', 'Y'] [['B', 'G', 'O', 'R'], ['G', 'Y', 'R', 'P']] rfl ((calc_eq_fastP ['P', 'B', 'R', 'Y'] ['G', 'Y', 'R', 'P'] (by decide) (by decide)).trans (by decide)) (by decide) pe78 rfl nx78 (by decide) (by decide) (by decide)).trans ?_
  refine Eq.trans (step_lift ['G', 'Y', 'R', 'P'] (?_ : loopRun (honest ['P', 'B', 'R', 'Y']) 5 (some ['G', 'B', 'P', 'Y']) E78 [['B', 'G', 'O', 'R'], ['G', 'Y', 'R', 'P']] = (RunResult.solved ['P', 'B', 'R', 'Y'] 4, [['G', 'B', 'P', 'Y'], ['P', 'B', 'R', 'Y']]))) rfl
  refine (loopRun_step ['P', 'B', 'R', 'Y'] 5 4 ['G', 'B', 'P', 'Y'] E78 [['B', 'G', 'O', 'R'], ['G', 'Y', 'R', 'P']] 1 2 [['P', 'B', 'R', 'Y']] ['P', 'B', 'R', 'Y'] [['B', 'G', 'O', 'R'], ['G', 'Y', 'R', 'P'], ['G', 'B', 'P', 'Y']] rfl ((calc_eq_fastP ['P', 'B', 'R', 'Y'] ['G', 'B', 'P', 'Y'] (by decide) (by decide)).trans (by decide)) (by decide) pe307 rfl (findNextGuess_singleton ['P', 'B', 'R', 'Y'] [['B', 'G', 'O', 'R'], ['G', 'Y', 'R', 'P'], ['G', 'B', 'P', 'Y']]) (by decide) (by decide) (by decide)).trans ?_
  refine Eq.trans (step_lift ['G', 'B', 'P', 'Y'] (?_ : loopRun (honest ['P', 'B', 'R', 'Y']) 4 (some ['P', 'B', 'R', 'Y']) [['P', 'B', 'R', 'Y']] [['B', 'G', 'O', 'R'], ['G', 'Y', 'R', 'P'], ['G', 'B', 'P', 'Y']] = (RunResult.solved ['P', 'B', 'R', 'Y'] 4, [['P', 'B', 'R', 'Y']]))) rfl
  exact loopRun_last ['P', 'B', 'R', 'Y'] 4 3 [['P', 'B', 'R', 'Y']] [['B', 'G', 'O', 'R'], ['G', 'Y', 'R', 'P'], ['G', 'B', 'P', 'Y']] rfl rfl (by decide)

lemma rs309 : loopRun (honest ['P', 'B', 'Y', 'G']) 7 none S0 [] =
    (RunResult.solved ['P', 'B', 'Y', 'G'] 5, [['B', 'G', 'O', 'R'], ['G', 'Y', 'R', 'P'], ['R', 'B', 'P', 'Y'], ['R', 'P', 'Y', 'O'], ['P', 'B', 'Y', 'G']]) := by
  refine (loopRun_none' (honest ['P', 'B', 'Y', 'G']) 7 S0 []).trans ?_
  refine (loopRun_step ['P', 'B', 'Y', 'G'] 7 6 ['B', 'G', 'O', 'R'] S0 [] 2 0 E72 ['G', 'Y', 'R', 'P'] [['B', 'G', 'O', 'R']] rfl ((calc_eq_fastP ['P', 'B', 'Y', 'G'] ['B', 'G', 'O', 'R'] (by decide) (by decide)).trans (by decide)) (by decide) pe72 rfl nx72 (by decide) (by decide) (by decide)).trans ?_
  refine Eq.trans (step_lift ['B', 'G', 'O', 'R'] (?_ : loopRun (honest ['P', 'B', 'Y', 'G']) 6 (some ['G', 'Y', 'R', 'P']) E72 [['B', 'G', 'O', 'R']] = (RunResult.solved ['P', 'B', 'Y', 'G'] 5, [['G', 'Y', 'R', 'P'], ['R', 'B', 'P', 'Y'], ['R', 'P', 'Y', 'O'], ['P', 'B', 'Y', 'G']]))) rfl
  refine (loopRun_step ['P', 'B', 'Y', 'G'] 6 5 ['G', 'Y', 'R', 'P'] E72 [['B', 'G', 'O', 'R']] 3 0 E158 ['R', 'B', 'P', 'Y'] [['B', 'G', 'O', 'R'], ['G', 'Y', 'R', 'P']] rfl ((calc_eq_fastP ['P', 'B', 'Y', 'G'] ['G', 'Y', 'R', 'P'] (by decide) (by decide)).trans (by decide)) (by decide) pe158 rfl nx158 (by decide) (by decide) (by decide)).trans ?_
  refine Eq.trans (step_lift ['G', 'Y', 'R', 'P'] (?_ : loopRun (honest ['P', 'B', 'Y', 'G']) 5 (some ['R', 'B', 'P', 'Y']) E158 [['B', 'G', 'O', 'R'], ['G', 'Y', 'R', 'P']] = (RunResult.solved ['P', 'B', 'Y', 'G'] 5, [['R', 'B', 'P', 'Y'], ['R', 'P', 'Y', 'O'], ['P', 'B', 'Y', 'G']]))) rfl
  refine (loopRun_step ['P', 'B', 'Y', 'G'] 5 4 ['R', 'B', 'P', 'Y'] E158 [['B', 'G', 'O', 'R'], ['G', 'Y', 'R', 'P']] 2 1 E239 ['R', 'P', 'Y', 'O'] [['B', 'G', 'O', 'R'], ['G', 'Y', 'R', 'P'], ['R', 'B', 'P', 'Y']] rfl ((calc_eq_fastP ['P', 'B', 'Y', 'G'] ['R', 'B', 'P', 'Y'] (by decide) (by decide)).trans (by decide)) (by decide) pe239 rfl nx239 (by decide) (by decide) (by decide)).trans ?_
  refine Eq.trans (step_lift ['R', 'B', 'P', 'Y'] (?_ : loopRun (honest ['P', 'B', 'Y', 'G']) 4 (some ['R', 'P', 'Y', 'O']) E239 [['B', 'G', 'O', 'R'], ['G', 'Y', 'R', 'P'], ['R', 'B', 'P', 'Y']] = (RunResult.solved ['P', 'B', 'Y', 'G'] 5, [['R', 'P', 'Y', 'O'], ['P', 'B', 'Y', 'G']]))) rfl
  refine (loopRun_step ['P', 'B', 'Y', 'G'] 4 3 ['R', 'P', 'Y', 'O'] E239 [['B', 'G', 'O', 'R'], ['G', 'Y', 'R', 'P'], ['R', 'B', 'P', 'Y']] 1 1 [['P', 'B', 'Y', 'G']] ['P', 'B', 'Y', 'G'] [['B', 'G', 'O', 'R'], ['G', 'Y', 'R', 'P'], ['R', 'B', 'P', 'Y'], ['R', 'P', 'Y', 'O']] rfl ((calc_eq_fastP ['P', 'B', 'Y', 'G'] ['R', 'P', 'Y', 'O'] (by decide) (by decide)).trans (by decide)) (by decide) pe308 rfl (findNextGuess_singleton ['P', 'B', 'Y', 'G'] [['B', 'G', 'O', 'R'], ['G', 'Y', 'R', 'P'], ['R', 'B', 'P', 'Y'], ['R', 'P', 'Y', 'O']]) (by decide) (by decide) (by decide)).trans ?_
  refine Eq.trans (step_lift ['R', 'P', 'Y', 'O'] (?_ : loopRun (honest ['P', 'B', 'Y', 'G']) 3 (some ['P', 'B', 'Y', 'G']) [['P', 'B', 'Y', 'G']] [['B', 'G', 'O', 'R'], ['G', 'Y', 'R', 'P'], ['R', 'B', 'P', 'Y'], ['R', 'P', 'Y', 'O']] = (RunResult.solved ['P', 'B', 'Y', 'G'] 5, [['P', 'B', 'Y', 'G']]))) rfl
  exact loopRun_last ['P', 'B', 'Y', 'G'] 3 2 [['P', 'B', 'Y', 'G']] [['B', 'G', 'O', 'R'], ['G', 'Y', 'R', 'P'], ['R', 'B', 'P', 'Y'], ['R', 'P', 'Y', 'O']] rfl rfl (by decide)

lemma rs310 : loopRun (honest ['P', 'B', 'Y', 'O']) 7 none S0 [] =
    (RunResult.solved ['P', 'B', 'Y', 'O'] 6, [['B', 'G', 'O', 'R'], ['G', 'Y', 'R', 'P'], ['O', 'B', 'P', 'Y'], ['O', 'P', 'Y', 'B'], ['Y', 'O', 'P', 'B'], ['P', 'B', 'Y', 'O']]) := by
  refine (loopRun_none' (honest ['P', 'B', 'Y', 'O']) 7 S0 []).trans ?_
  refine (loopRun_step ['P', 'B', 'Y', 'O'] 7 6 ['B', 'G', 'O', 'R'] S0 [] 2 0 E72 ['G', 'Y', 'R', 'P'] [['B', 'G', 'O', 'R']] rfl ((calc_eq_fastP ['P', 'B', 'Y', 'O'] ['B', 'G', 'O', 'R'] (by decide) (by decide)).trans (by decide)) (by decide) pe72 rfl nx72 (by decide) (by decide) (by decide)).trans ?_
  refine Eq.trans (step_lift ['B', 'G', 'O', 'R'] (?_ : loopRun (honest ['P', 'B', 'Y', 'O']) 6 (some ['G', 'Y', 'R', 'P']) E72 [['B', 'G', 'O', 'R']] = (RunResult.solved ['P', 'B', 'Y', 'O'] 6, [['G', 'Y', 'R', 'P'], ['O', 'B', 'P', 'Y'], ['O', 'P', 'Y', 'B'], ['Y', 'O', 'P', 'B'], ['P', 'B', 'Y', 'O']]))) rfl
  refine (loopRun_step ['P', 'B', 'Y', 'O'] 6 5 ['G', 'Y', 'R', 'P'] E72 [['B', 'G', 'O', 'R']] 2 0 E133 ['O', 'B', 'P', 'Y'] [['B', 'G', 'O', 'R'], ['G', 'Y', 'R', 'P']] rfl ((calc_eq_fastP ['P', 'B', 'Y', 'O'] ['G', 'Y', 'R', 'P'] (by decide) (by decide)).trans (by decide)) (by decide) pe133 rfl nx133 (by decide) (by decide) (by decide)).trans ?_
  refine Eq.trans (step_lift ['G', 'Y', 'R', 'P'] (?_ : loopRun (honest ['P', 'B', 'Y', 'O']) 5 (some ['O', 'B', 'P', 'Y']) E133 [['B', 'G', 'O', 'R'], ['G', 'Y', 'R', 'P']] = (RunResult.solved ['P', 'B', 'Y', 'O'] 6, [['O', 'B', 'P', 'Y'], ['O', 'P', 'Y', 'B'], ['Y', 'O', 'P', 'B'], ['P', 'B', 'Y', 'O']]))) rfl
  refine (loopRun_step ['P', 'B', 'Y', 'O'] 5 4 ['O', 'B', 'P', 'Y'] E133 [['B', 'G', 'O', 'R'], ['G', 'Y', 'R', 'P']] 3 1 E180 ['O', 'P', 'Y', 'B'] [['B', 'G', 'O', 'R'], ['G', 'Y', 'R', 'P'], ['O', 'B', 'P', 'Y']] rfl ((calc_eq_fastP ['P', 'B', 'Y', 'O'] ['O', 'B', 'P', 'Y'] (by decide) (by decide)).trans (by decide)) (by decide) pe180 rfl nx180 (by decide) (by decide) (by decide)).trans ?_
  refine Eq.trans (step_lift ['O', 'B', 'P', 'Y'] (?_ : loopRun (honest ['P', 'B', 'Y', 'O']) 4 (some ['O', 'P', 'Y', 'B']) E180 [['B', 'G', 'O', 'R'], ['G', 'Y', 'R', 'P'], ['O', 'B', 'P', 'Y']] = (RunResult.solved ['P', 'B', 'Y', 'O'] 6, [['O', 'P', 'Y', 'B'], ['Y', 'O', 'P', 'B'], ['P', 'B', 'Y', 'O']]))) rfl
  refine (loopRun_step ['P', 'B', 'Y', 'O'] 4 3 ['O', 'P', 'Y', 'B'] E180 [['B', 'G', 'O', 'R'], ['G', 'Y', 'R', 'P'], ['O', 'B', 'P', 'Y']] 3 1 E272 ['Y', 'O', 'P', 'B'] [['B', 'G', 'O', 'R'], ['G', 'Y', 'R', 'P'], ['O', 'B', 'P', 'Y'], ['O', 'P', 'Y', 'B']] rfl ((calc_eq_fastP ['P', 'B', 'Y', 'O'] ['O', 'P', 'Y', 'B'] (by decide) (by decide)).trans (by decide)) (by decide) pe272 rfl nx272 (by decide) (by decide) (by decide)).trans ?_
  refine Eq.trans (step_lift ['O', 'P', 'Y', 'B'] (?_ : loopRun (honest ['P', 'B', 'Y', 'O']) 3 (some ['Y', 'O', 'P', 'B']) E272 [['B', 'G', 'O', 'R'], ['G', 'Y', 'R', 'P'], ['O', 'B', 'P', 'Y'], ['O', 'P', 'Y', 'B']] = (RunResult.solved ['P', 'B', 'Y', 'O'] 6, [['Y', 'O', 'P', 'B'], ['P', 'B', 'Y', 'O']]))) rfl
  refine (loopRun_step ['P', 'B', 'Y', 'O'] 3 2 ['Y', 'O', 'P', 'B'] E272 [['B', 'G', 'O', 'R'], ['G', 'Y', 'R', 'P'], ['O', 'B', 'P', 'Y'], ['O', 'P', 'Y', 'B']] 4 0 [['P', 'B', 'Y', 'O']] ['P', 'B', 'Y', 'O'] [['B', 'G', 'O', 'R'], ['G', 'Y', 'R', 'P'], ['O', 'B', 'P', 'Y'], ['O', 'P', 'Y', 'B'], ['Y', 'O', 'P', 'B']] rfl ((calc_eq_fastP ['P', 'B', 'Y', 'O'] ['Y', 'O', 'P', 'B'] (by decide) (by decide)).trans (by decide)) (by decide) pe309 rfl (findNextGuess_singleton ['P', 'B', 'Y', 'O'] [['B', 'G', 'O', 'R'], ['G', 'Y', 'R', 'P'], ['O', 'B', 'P', 'Y'], ['O', 'P', 'Y', 'B'], ['Y', 'O', 'P', 'B']]) (by decide) (by decide) (by decide)).trans ?_
  refine Eq.trans (step_lift ['Y', 'O', 'P', 'B'] (?_ : loopRun (honest ['P', 'B', 'Y', 'O']) 2 (some ['P', 'B', 'Y', 'O']) [['P', 'B', 'Y', 'O']] [['B', 'G', 'O', 'R'], ['G', 'Y', 'R', 'P'], ['O', 'B', 'P', 'Y'], ['O', 'P', 'Y', 'B'], ['Y', 'O', 'P', 'B']] = (RunResult.solved ['P', 'B', 'Y', 'O'] 6, [['P', 'B', 'Y', 'O']]))) rfl
  exact loopRun_last ['P', 'B', 'Y', 'O'] 2 1 [['P', 'B', 'Y', 'O']] [['B', 'G', 'O', 'R'], ['G', 'Y', 'R', 'P'], ['O', 'B', 'P', 'Y'], ['O', 'P', 'Y', 'B'], ['Y', 'O', 'P', 'B']] rfl rfl (by decide)

lemma rs311 : loopRun (honest ['P', 'B', 'Y', 'R']) 7 none S0 [] =
    (RunResult.solved ['P', 'B', 'Y', 'R'] 4, [['B', 'G', 'O', 'R'], ['B', 'O', 'Y', 'P'], ['B', 'Y', 'P', 'G'], ['P', 'B', 'Y', 'R']]) := by
  refine (loopRun_none' (honest ['P', 'B', 'Y', 'R']) 7 S0 []).trans ?_
  refine (loopRun_step ['P', 'B', 'Y', 'R'] 7 6 ['B', 'G', 'O', 'R'] S0 [] 1 1 E20 ['B', 'O', 'Y', 'P'] [['B', 'G', 'O', 'R']] rfl ((calc_eq_fastP ['P', 'B', 'Y', 'R'] ['B', 'G', 'O', 'R'] (by decide) (by decide)).trans (by decide)) (by decide) pe20 rfl nx20 (by decide) (by decide) (by decide)).trans ?_
  refine Eq.trans (step_lift ['B', 'G', 'O', 'R'] (?_ : loopRun (honest ['P', 'B', 'Y', 'R']) 6 (some ['B', 'O', 'Y', 'P']) E20 [['B', 'G', 'O', 'R']] = (RunResult.solved ['P', 'B', 'Y', 'R'] 4, [['B', 'O', 'Y', 'P'], ['B', 'Y', 'P', 'G'], ['P', 'B', 'Y', 'R']]))) rfl
  refine (loopRun_step ['P', 'B', 'Y', 'R'] 6 5 ['B', 'O', 'Y', 'P'] E20 [['B', 'G', 'O', 'R']] 2 1 E35 ['B', 'Y', 'P', 'G'] [['B', 'G', 'O', 'R'], ['B', 'O', 'Y', 'P']] rfl ((calc_eq_fastP ['P', 'B', 'Y', 'R'] ['B', 'O', 'Y', 'P'] (by decide) (by decide)).trans (by decide)) (by decide) pe35 rfl nx35 (by decide) (by decide) (by decide)).trans ?_
  refine Eq.trans (step_lift ['B', 'O', 'Y', 'P'] (?_ : loopRun (honest ['P', 'B', 'Y', 'R']) 5 (some ['B', 'Y', 'P', 'G']) E35 [['B', 'G', 'O', 'R'], ['B', 'O', 'Y', 'P']] = (RunResult.solved ['P', 'B', 'Y', 'R'] 4, [['B', 'Y', 'P', 'G'], ['P', 'B', 'Y', 'R']]))) rfl
  refine (loopRun_step ['P', 'B', 'Y', 'R'] 5 4 ['B', 'Y', 'P', 'G'] E35 [['B', 'G', 'O', 'R'], ['B', 'O', 'Y', 'P']] 3 0 E310 ['P', 'B', 'Y', 'R'] [['B', 'G', 'O', 'R'], ['B', 'O', 'Y', 'P'], ['B', 'Y', 'P', 'G']] rfl ((calc_eq_fastP ['P', 'B', 'Y', 'R'] ['B', 'Y', 'P', 'G'] (by decide) (by decide)).trans (by decide)) (by decide) pe310 rfl nx310 (by decide) (by decide) (by decide)).trans ?_
  refine Eq.trans (step_lift ['B', 'Y', 'P', 'G'] (?_ : loopRun (honest ['P', 'B', 'Y', 'R']) 4 (some ['P', 'B', 'Y', 'R']) E310 [['B', 'G', 'O', 'R'], ['B', 'O', 'Y', 'P'], ['B', 'Y', 'P', 'G']] = (RunResult.solved ['P', 'B', 'Y', 'R'] 4, [['P', 'B', 'Y', 'R']]))) rfl
  exact loopRun_last ['P', 'B', 'Y', 'R'] 4 3 E310 [['B', 'G', 'O', 'R'], ['B', 'O', 'Y', 'P'], ['B', 'Y', 'P', 'G']] rfl rfl (by decide)

lemma rs312 : loopRun (honest ['P', 'G', 'B', 'O']) 7 none S0 [] =
    (RunResult.solved ['P', 'G', 'B', 'O'] 5, [['B', 'G', 'O', 'R'], ['B', 'O', 'R', 'Y'], ['G', 'P', 'O', 'B'], ['O', 'G', 'B', 'P'], ['P', 'G', 'B', 'O']]) := by
  refine (loopRun_none' (honest ['P', 'G', 'B', 'O']) 7 S0 []).trans ?_
  refine (loopRun_step ['P', 'G', 'B', 'O'] 7 6 ['B', 'G', 'O', 'R'] S0 [] 2 1 E13 ['B', 'O', 'R', 'Y'] [['B', 'G', 'O', 'R']] rfl ((calc_eq_fastP ['P', 'G', 'B', 'O'] ['B', 'G', 'O', 'R'] (by decide) (by decide)).trans (by decide)) (by decide) pe13 rfl nx13 (by decide) (by decide) (by decide)).trans ?_
  refine Eq.trans (step_lift ['B', 'G', 'O', 'R'] (?_ : loopRun (honest ['P', 'G', 'B', 'O']) 6 (some ['B', 'O', 'R', 'Y']) E13 [['B', 'G', 'O', 'R']] = (RunResult.solved ['P', 'G', 'B', 'O'] 5, [['B', 'O', 'R', 'Y'], ['G', 'P', 'O', 'B'], ['O', 'G', 'B', 'P'], ['P', 'G', 'B', 'O']]))) rfl
  refine (loopRun_step ['P', 'G', 'B', 'O'] 6 5 ['B', 'O', 'R', 'Y'] E13 [['B', 'G', 'O', 'R']] 2 0 E62 ['G', 'P', 'O', 'B'] [['B', 'G', 'O', 'R'], ['B', 'O', 'R', 'Y']] rfl ((calc_eq_fastP ['P', 'G', 'B', 'O'] ['B', 'O', 'R', 'Y'] (by decide) (by decide)).trans (by decide)) (by decide) pe62 rfl nx62 (by decide) (by decide) (by decide)).trans ?_
  refine Eq.trans (step_lift ['B', 'O', 'R', 'Y'] (?_ : loopRun (honest ['P', 'G', 'B', 'O']) 5 (some ['G', 'P', 'O', 'B']) E62 [['B', 'G', 'O', 'R'], ['B', 'O', 'R', 'Y']] = (RunResult.solved ['P', 'G', 'B', 'O'] 5, [['G', 'P', 'O', 'B'], ['O', 'G', 'B', 'P'], ['P', 'G', 'B', 'O']]))) rfl
  refine (loopRun_step ['P', 'G', 'B', 'O'] 5 4 ['G', 'P', 'O', 'B'] E62 [['B', 'G', 'O', 'R'], ['B', 'O', 'R', 'Y']] 4 0 E136 ['O', 'G', 'B', 'P'] [['B', 'G', 'O', 'R'], ['B', 'O', 'R', 'Y'], ['G', 'P', 'O', 'B']] rfl ((calc_eq_fastP ['P', 'G', 'B', 'O'] ['G', 'P', 'O', 'B'] (by decide) (by decide)).trans (by decide)) (by decide) pe136 rfl nx136 (by decide) (by decide) (by decide)).trans ?_
  refine Eq.trans (step_lift ['G', 'P', 'O', 'B'] (?_ : loopRun (honest ['P', 'G', 'B', 'O']) 4 (some ['O', 'G', 'B', 'P']) E136 [['B', 'G', 'O', 'R'], ['B', 'O', 'R', 'Y'], ['G', 'P', 'O', 'B']] = (RunResult.solved ['P', 'G', 'B', 'O'] 5, [['O', 'G', 'B', 'P'], ['P', 'G', 'B', 'O']]))) rfl
  refine (loopRun_step ['P', 'G', 'B', 'O'] 4 3 ['O', 'G', 'B', 'P'] E136 [['B', 'G', 'O', 'R'], ['B', 'O', 'R', 'Y'], ['G', 'P', 'O', 'B']] 2 2 [['P', 'G', 'B', 'O']] ['P', 'G', 'B', 'O'] [['B', 'G', 'O', 'R'], ['B', 'O', 'R', 'Y'], ['G', 'P', 'O', 'B'], ['O', 'G', 'B', 'P']] rfl ((calc_eq_fastP ['P', 'G', 'B', 'O'] ['O', 'G', 'B', 'P'] (by decide) (by decide)).trans (by decide)) (by decide) pe311 rfl (findNextGuess_singleton ['P', 'G', 'B', 'O'] [['B', 'G', 'O', 'R'], ['B', 'O', 'R', 'Y'], ['G', 'P', 'O', 'B'], ['O', 'G', 'B', 'P']]) (by decide) (by decide) (by decide)).trans ?_
  refine Eq.trans (step_lift ['O', 'G', 'B', 'P'] (?_ : loopRun (honest ['P', 'G', 'B', 'O']) 3 (some ['P', 'G', 'B', 'O']) [['P', 'G', 'B', 'O']] [['B', 'G', 'O', 'R'], ['B', 'O', 'R', 'Y'], ['G', 'P', 'O', 'B'], ['O', 'G', 'B', 'P']] = (RunResult.solved ['P', 'G', 'B', 'O'] 5, [['P', 'G', 'B', 'O']]))) rfl
  exact loopRun_last ['P', 'G', 'B', 'O'] 3 2 [['P', 'G', 'B', 'O']] [['B', 'G', 'O', 'R'], ['B', 'O', 'R', 'Y'], ['G', 'P', 'O', 'B'], ['O', 'G', 'B', 'P']] rfl rfl (by decide)

lemma rs313 : loopRun (honest ['P', 'G', 'B', 'R']) 7 none S0 [] =
    (RunResult.solved ['P', 'G', 'B', 'R'] 4, [['B', 'G', 'O', 'R'], ['B', 'G', 'R', 'Y'], ['B', 'O', 'Y', 'R'], ['P', 'G', 'B', 'R']]) := by
  refine (loopRun_none' (honest ['P', 'G', 'B', 'R']) 7 S0 []).trans ?_
  refine (loopRun_step ['P', 'G', 'B', 'R'] 7 6 ['B', 'G', 'O', 'R'] S0 [] 1 2 E3 ['B', 'G', 'R', 'Y'] [['B', 'G', 'O', 'R']] rfl ((calc_eq_fastP ['P', 'G', 'B', 'R'] ['B', 'G', 'O', 'R'] (by decide) (by decide)).trans (by decide)) (by decide) pe3 rfl nx3 (by decide) (by decide) (by decide)).trans ?_
  refine Eq.trans (step_lift ['B', 'G', 'O', 'R'] (?_ : loopRun (honest ['P', 'G', 'B', 'R']) 6 (some ['B', 'G', 'R', 'Y']) E3 [['B', 'G', 'O', 'R']] = (RunResult.solved ['P', 'G', 'B', 'R'] 4, [['B', 'G', 'R', 'Y'], ['B', 'O', 'Y', 'R'], ['P', 'G', 'B', 'R']]))) rfl
  refine (loopRun_step ['P', 'G', 'B', 'R'] 6 5 ['B', 'G', 'R', 'Y'] E3 [['B', 'G', 'O', 'R']] 2 1 E19 ['B', 'O', 'Y', 'R'] [['B', 'G', 'O', 'R'], ['B', 'G', 'R', 'Y']] rfl ((calc_eq_fastP ['P', 'G', 'B', 'R'] ['B', 'G', 'R', 'Y'] (by decide) (by decide)).trans (by decide)) (by decide) pe19 rfl nx19 (by decide) (by decide) (by decide)).trans ?_
  refine Eq.trans (step_lift ['B', 'G', 'R', 'Y'] (?_ : loopRun (honest ['P', 'G', 'B', 'R']) 5 (some ['B', 'O', 'Y', 'R']) E19 [['B', 'G', 'O', 'R'], ['B', 'G', 'R', 'Y']] = (RunResult.solved ['P', 'G', 'B', 'R'] 4, [['B', 'O', 'Y', 'R'], ['P', 'G', 'B', 'R']]))) rfl
  refine (loopRun_step ['P', 'G', 'B', 'R'] 5 4 ['B', 'O', 'Y', 'R'] E19 [['B', 'G', 'O', 'R'], ['B', 'G', 'R', 'Y']] 1 1 [['P', 'G', 'B', 'R']] ['P', 'G', 'B', 'R'] [['B', 'G', 'O', 'R'], ['B', 'G', 'R', 'Y'], ['B', 'O', 'Y', 'R']] rfl ((calc_eq_fastP ['P', 'G', 'B', 'R'] ['B', 'O', 'Y', 'R'] (by decide) (by decide)).trans (by decide)) (by decide) pe312 rfl (findNextGuess_singleton ['P', 'G', 'B', 'R'] [['B', 'G', 'O', 'R'], ['B', 'G', 'R', 'Y'], ['B', 'O', 'Y', 'R']]) (by decide) (by decide) (by decide)).trans ?_
  refine Eq.trans (step_lift ['B', 'O', 'Y', 'R'] (?_ : loopRun (honest ['P', 'G', 'B', 'R']) 4 (some ['P', 'G', 'B', 'R']) [['P', 'G', 'B', 'R']] [['B', 'G', 'O', 'R'], ['B', 'G', 'R', 'Y'], ['B', 'O', 'Y', 'R']] = (RunResult.solved ['P', 'G', 'B', 'R'] 4, [['P', 'G', 'B', 'R']]))) rfl
  exact loopRun_last ['P', 'G', 'B', 'R'] 4 3 [['P', 'G', 'B', 'R']] [['B', 'G', 'O', 'R'], ['B', 'G', 'R', 'Y'], ['B', 'O', 'Y', 'R']] rfl rfl (by decide)

lemma rs314 : loopRun (honest ['P', 'G', 'B', 'Y']) 7 none S0 [] =
    (RunResult.solved ['P', 'G', 'B', 'Y'] 4, [['B', 'G', 'O', 'R'], ['B', 'O', 'Y', 'P'], ['G', 'P', 'O', 'Y'], ['P', 'G', 'B', 'Y']]) := by
  refine (loopRun_none' (honest ['P', 'G', 'B', 'Y']) 7 S0 []).trans ?_
  refine (loopRun_step ['P', 'G', 'B', 'Y'] 7 6 ['B', 'G', 'O', 'R'] S0 [] 1 1 E20 ['B', 'O', 'Y', 'P'] [['B', 'G', 'O', 'R']] rfl ((calc_eq_fastP ['P', 'G', 'B', 'Y'] ['B', 'G', 'O', 'R'] (by decide) (by decide)).trans (by decide)) (by decide) pe20 rfl nx20 (by decide) (by decide) (by decide)).trans ?_
  refine Eq.trans (step_lift ['B', 'G', 'O', 'R'] (?_ : loopRun (honest ['P', 'G', 'B', 'Y']) 6 (some ['B', 'O', 'Y', 'P']) E20 [['B', 'G', 'O', 'R']] = (RunResult.solved ['P', 'G', 'B', 'Y'] 4, [['B', 'O', 'Y', 'P'], ['G', 'P', 'O', 'Y'], ['P', 'G', 'B', 'Y']]))) rfl
  refine (loopRun_step ['P', 'G', 'B', 'Y'] 6 5 ['B', 'O', 'Y', 'P'] E20 [['B', 'G', 'O', 'R']] 3 0 E114 ['G', 'P', 'O', 'Y'] [['B', 'G', 'O', 'R'], ['B', 'O', 'Y', 'P']] rfl ((calc_eq_fastP ['P', 'G', 'B', 'Y'] ['B', 'O', 'Y', 'P'] (by decide) (by decide)).trans (by decide)) (by decide) pe114 rfl nx114 (by decide) (by decide) (by decide)).trans ?_
  refine Eq.trans (step_lift ['B', 'O', 'Y', 'P'] (?_ : loopRun (honest ['P', 'G', 'B', 'Y']) 5 (some ['G', 'P', 'O', 'Y']) E114 [['B', 'G', 'O', 'R'], ['B', 'O', 'Y', 'P']] = (RunResult.solved ['P', 'G', 'B', 'Y'] 4, [['G', 'P', 'O', 'Y'], ['P', 'G', 'B', 'Y']]))) rfl
  refine (loopRun_step ['P', 'G', 'B', 'Y'] 5 4 ['G', 'P', 'O', 'Y'] E114 [['B', 'G', 'O', 'R'], ['B', 'O', 'Y', 'P']] 2 1 [['P', 'G', 'B', 'Y']] ['P', 'G', 'B', 'Y'] [['B', 'G', 'O', 'R'], ['B', 'O', 'Y', 'P'], ['G', 'P', 'O', 'Y']] rfl ((calc_eq_fastP ['P', 'G', 'B', 'Y'] ['G', 'P', 'O', 'Y'] (by decide) (by decide)).trans (by decide)) (by decide) pe313 rfl (findNextGuess_singleton ['P', 'G', 'B', 'Y'] [['B', 'G', 'O', 'R'], ['B', 'O', 'Y', 'P'], ['G', 'P', 'O', 'Y']]) (by decide) (by decide) (by decide)).trans ?_
  refine Eq.trans (step_lift ['G', 'P', 'O', 'Y'] (?_ : loopRun (honest ['P', 'G', 'B', 'Y']) 4 (some ['P', 'G', 'B', 'Y']) [['P', 'G', 'B', 'Y']] [['B', 'G', 'O', 'R'], ['B', 'O', 'Y', 'P'], ['G', 'P', 'O', 'Y']] = (RunResult.solved ['P', 'G', 'B', 'Y'] 4, [['P', 'G', 'B', 'Y']]))) rfl
  exact loopRun_last ['P', 'G', 'B', 'Y'] 4 3 [['P', 'G', 'B', 'Y']] [['B', 'G', 'O', 'R'], ['B', 'O', 'Y', 'P'], ['G', 'P', 'O', 'Y']] rfl rfl (by decide)

lemma rs315 : loopRun (honest ['P', 'G', 'O', 'B']) 7 none S0 [] =
    (RunResult.solved ['P', 'G', 'O', 'B'] 5, [['B', 'G', 'O', 'R'], ['B', 'G', 'R', 'Y'], ['B', 'O', 'P', 'R'], ['R', 'G', 'O', 'P'], ['P', 'G', 'O', 'B']]) := by
  refine (loopRun_none' (honest ['P', 'G', 'O', 'B']) 7 S0 []).trans ?_
  refine (loopRun_step ['P', 'G', 'O', 'B'] 7 6 ['B', 'G', 'O', 'R'] S0 [] 1 2 E3 ['B', 'G', 'R', 'Y'] [['B', 'G', 'O', 'R']] rfl ((calc_eq_fastP ['P', 'G', 'O', 'B'] ['B', 'G', 'O', 'R'] (by decide) (by decide)).trans (by decide)) (by decide) pe3 rfl nx3 (by decide) (by decide) (by decide)).trans ?_
  refine Eq.trans (step_lift ['B', 'G', 'O', 'R'] (?_ : loopRun (honest ['P', 'G', 'O', 'B']) 6 (some ['B', 'G', 'R', 'Y']) E3 [['B', 'G', 'O', 'R']] = (RunResult.solved ['P', 'G', 'O', 'B'] 5, [['B', 'G', 'R', 'Y'], ['B', 'O', 'P', 'R'], ['R', 'G', 'O', 'P'], ['P', 'G', 'O', 'B']]))) rfl
  refine (loopRun_step ['P', 'G', 'O', 'B'] 6 5 ['B', 'G', 'R', 'Y'] E3 [['B', 'G', 'O', 'R']] 1 1 E22 ['B', 'O', 'P', 'R'] [['B', 'G', 'O', 'R'], ['B', 'G', 'R', 'Y']] rfl ((calc_eq_fastP ['P', 'G', 'O', 'B'] ['B', 'G', 'R', 'Y'] (by decide) (by decide)).trans (by decide)) (by decide) pe22 rfl nx22 (by decide) (by decide) (by decide)).trans ?_
  refine Eq.trans (step_lift ['B', 'G', 'R', 'Y'] (?_ : loopRun (honest ['P', 'G', 'O', 'B']) 5 (some ['B', 'O', 'P', 'R']) E22 [['B', 'G', 'O', 'R'], ['B', 'G', 'R', 'Y']] = (RunResult.solved ['P', 'G', 'O', 'B'] 5, [['B', 'O', 'P', 'R'], ['R', 'G', 'O', 'P'], ['P', 'G', 'O', 'B']]))) rfl
  refine (loopRun_step ['P', 'G', 'O', 'B'] 5 4 ['B', 'O', 'P', 'R'] E22 [['B', 'G', 'O', 'R'], ['B', 'G', 'R', 'Y']] 3 0 E198 ['R', 'G', 'O', 'P'] [['B', 'G', 'O', 'R'], ['B', 'G', 'R', 'Y'], ['B', 'O', 'P', 'R']] rfl ((calc_eq_fastP ['P', 'G', 'O', 'B'] ['B', 'O', 'P', 'R'] (by decide) (by decide)).trans (by decide)) (by decide) pe198 rfl nx198 (by decide) (by decide) (by decide)).trans ?_
  refine Eq.trans (step_lift ['B', 'O', 'P', 'R'] (?_ : loopRun (honest ['P', 'G', 'O', 'B']) 4 (some ['R', 'G', 'O', 'P']) E198 [['B', 'G', 'O', 'R'], ['B', 'G', 'R', 'Y'], ['B', 'O', 'P', 'R']] = (RunResult.solved ['P', 'G', 'O', 'B'] 5, [['R', 'G', 'O', 'P'], ['P', 'G', 'O', 'B']]))) rfl
  refine (loopRun_step ['P', 'G', 'O', 'B'] 4 3 ['R', 'G', 'O', 'P'] E198 [['B', 'G', 'O', 'R'], ['B', 'G', 'R', 'Y'], ['B', 'O', 'P', 'R']] 1 2 [['P', 'G', 'O', 'B']] ['P', 'G', 'O', 'B'] [['B', 'G', 'O', 'R'], ['B', 'G', 'R', 'Y'], ['B', 'O', 'P', 'R'], ['R', 'G', 'O', 'P']] rfl ((calc_eq_fastP ['P', 'G', 'O', 'B'] ['R', 'G', 'O', 'P'] (by decide) (by decide)).trans (by decide)) (by decide) pe314 rfl (findNextGuess_singleton ['P', 'G', 'O', 'B'] [['B', 'G', 'O', 'R'], ['B', 'G', 'R', 'Y'], ['B', 'O', 'P', 'R'], ['R', 'G', 'O', 'P']]) (by decide) (by decide) (by decide)).trans ?_
  refine Eq.trans (step_lift ['R', 'G', 'O', 'P'] (?_ : loopRun (honest ['P', 'G', 'O', 'B']) 3 (some ['P', 'G', 'O', 'B']) [['P', 'G', 'O', 'B']] [['B', 'G', 'O', 'R'], ['B', 'G', 'R', 'Y'], ['B', 'O', 'P', 'R'], ['R', 'G', 'O', 'P']] = (RunResult.solved ['P', 'G', 'O', 'B'] 5, [['P', 'G', 'O', 'B']]))) rfl
  exact loopRun_last ['P', 'G', 'O', 'B'] 3 2 [['P', 'G', 'O', 'B']] [['B', 'G', 'O', 'R'], ['B', 'G', 'R', 'Y'], ['B', 'O', 'P', 'R'], ['R', 'G', 'O', 'P']] rfl rfl (by decide)

lemma rs316 : loopRun (honest ['P', 'G', 'O', 'R']) 7 none S0 [] =
    (RunResult.solved ['P', 'G', 'O', 'R'] 5, [['B', 'G', 'O', 'R'], ['B', 'G', 'O', 'Y'], ['B', 'G', 'P', 'R'], ['B', 'P', 'O', 'R'], ['P', 'G', 'O', 'R']]) := by
  refine (loopRun_none' (honest ['P', 'G', 'O', 'R']) 7 S0 []).trans ?_
  refine (loopRun_step ['P', 'G', 'O', 'R'] 7 6 ['B', 'G', 'O', 'R'] S0 [] 0 3 E0 ['B', 'G', 'O', 'Y'] [['B', 'G', 'O', 'R']] rfl ((calc_eq_fastP ['P', 'G', 'O', 'R'] ['B', 'G', 'O', 'R'] (by decide) (by decide)).trans (by decide)) (by decide) pe0 rfl nx0 (by decide) (by decide) (by decide)).trans ?_
  refine Eq.trans (step_lift ['B', 'G', 'O', 'R'] (?_ : loopRun (honest ['P', 'G', 'O', 'R']) 6 (some ['B', 'G', 'O', 'Y']) E0 [['B', 'G', 'O', 'R']] = (RunResult.solved ['P', 'G', 'O', 'R'] 5, [['B', 'G', 'O', 'Y'], ['B', 'G', 'P', 'R'], ['B', 'P', 'O', 'R'], ['P', 'G', 'O', 'R']]))) rfl
  refine (loopRun_step ['P', 'G', 'O', 'R'] 6 5 ['B', 'G', 'O', 'Y'] E0 [['B', 'G', 'O', 'R']] 0 2 E10 ['B', 'G', 'P', 'R'] [['B', 'G', 'O', 'R'], ['B', 'G', 'O', 'Y']] rfl ((calc_eq_fastP ['P', 'G', 'O', 'R'] ['B', 'G', 'O', 'Y'] (by decide) (by decide)).trans (by decide)) (by decide) pe10 rfl nx10 (by decide) (by decide) (by decide)).trans ?_
  refine Eq.trans (step_lift ['B', 'G', 'O', 'Y'] (?_ : loopRun (honest ['P', 'G', 'O', 'R']) 5 (some ['B', 'G', 'P', 'R']) E10 [['B', 'G', 'O', 'R'], ['B', 'G', 'O', 'Y']] = (RunResult.solved ['P', 'G', 'O', 'R'] 5, [['B', 'G', 'P', 'R'], ['B', 'P', 'O', 'R'], ['P', 'G', 'O', 'R']]))) rfl
  refine (loopRun_step ['P', 'G', 'O', 'R'] 5 4 ['B', 'G', 'P', 'R'] E10 [['B', 'G', 'O', 'R'], ['B', 'G', 'O', 'Y']] 1 2 E52 ['B', 'P', 'O', 'R'] [['B', 'G', 'O', 'R'], ['B', 'G', 'O', 'Y'], ['B', 'G', 'P', 'R']] rfl ((calc_eq_fastP ['P', 'G', 'O', 'R'] ['B', 'G', 'P', 'R'] (by decide) (by decide)).trans (by decide)) (by decide) pe52 rfl nx52 (by decide) (by decide) (by decide)).trans ?_
  refine Eq.trans (step_lift ['B', 'G', 'P', 'R'] (?_ : loopRun (honest ['P', 'G', 'O', 'R']) 4 (some ['B', 'P', 'O', 'R']) E52 [['B', 'G', 'O', 'R'], ['B', 'G', 'O', 'Y'], ['B', 'G', 'P', 'R']] = (RunResult.solved ['P', 'G', 'O', 'R'] 5, [['B', 'P', 'O', 'R'], ['P', 'G', 'O', 'R']]))) rfl
  refine (loopRun_step ['P', 'G', 'O', 'R'] 4 3 ['B', 'P', 'O', 'R'] E52 [['B', 'G', 'O', 'R'], ['B', 'G', 'O', 'Y'], ['B', 'G', 'P', 'R']] 1 2 [['P', 'G', 'O', 'R']] ['P', 'G', 'O', 'R'] [['B', 'G', 'O', 'R'], ['B', 'G', 'O', 'Y'], ['B', 'G', 'P', 'R'], ['B', 'P', 'O', 'R']] rfl ((calc_eq_fastP ['P', 'G', 'O', 'R'] ['B', 'P', 'O', 'R'] (by decide) (by decide)).trans (by decide)) (by decide) pe315 rfl (findNextGuess_singleton ['P', 'G', 'O', 'R'] [['B', 'G', 'O', 'R'], ['B', 'G', 'O', 'Y'], ['B', 'G', 'P', 'R'], ['B', 'P', 'O', 'R']]) (by decide) (by decide) (by decide)).trans ?_
  refine Eq.trans (step_lift ['B', 'P', 'O', 'R'] (?_ : loopRun (honest ['P', 'G', 'O', 'R']) 3 (some ['P', 'G', 'O', 'R']) [['P', 'G', 'O', 'R']] [['B', 'G', 'O', 'R'], ['B', 'G', 'O', 'Y'], ['B', 'G', 'P', 'R'], ['B', 'P', 'O', 'R']] = (RunResult.solved ['P', 'G', 'O', 'R'] 5, [['P', 'G', 'O', 'R']]))) rfl
  exact loopRun_last ['P', 'G', 'O', 'R'] 3 2 [['P', 'G', 'O', 'R']] [['B', 'G', 'O', 'R'], ['B', 'G', 'O', 'Y'], ['B', 'G', 'P', 'R'], ['B', 'P', 'O', 'R']] rfl rfl (by decide)

lemma rs317 : loopRun (honest ['P', 'G', 'O', 'Y']) 7 none S0 [] =
    (RunResult.solved ['P', 'G', 'O', 'Y'] 4, [['B', 'G', 'O', 'R'], ['B', 'G', 'Y', 'P'], ['B', 'Y', 'P', 'R'], ['P', 'G', 'O', 'Y']]) := by
  refine (loopRun_none' (honest ['P', 'G', 'O', 'Y']) 7 S0 []).trans ?_
  refine (loopRun_step ['P', 'G', 'O', 'Y'] 7 6 ['B', 'G', 'O', 'R'] S0 [] 0 2 E8 ['B', 'G', 'Y', 'P'] [['B', 'G', 'O', 'R']] rfl ((calc_eq_fastP ['P', 'G', 'O', 'Y'] ['B', 'G', 'O', 'R'] (by decide) (by decide)).trans (by decide)) (by decide) pe8 rfl nx8 (by decide) (by decide) (by decide)).trans ?_
  refine Eq.trans (step_lift ['B', 'G', 'O', 'R'] (?_ : loopRun (honest ['P', 'G', 'O', 'Y']) 6 (some ['B', 'G', 'Y', 'P']) E8 [['B', 'G', 'O', 'R']] = (RunResult.solved ['P', 'G', 'O', 'Y'] 4, [['B', 'G', 'Y', 'P'], ['B', 'Y', 'P', 'R'], ['P', 'G', 'O', 'Y']]))) rfl
  refine (loopRun_step ['P', 'G', 'O', 'Y'] 6 5 ['B', 'G', 'Y', 'P'] E8 [['B', 'G', 'O', 'R']] 2 1 E47 ['B', 'Y', 'P', 'R'] [['B', 'G', 'O', 'R'], ['B', 'G', 'Y', 'P']] rfl ((calc_eq_fastP ['P', 'G', 'O', 'Y'] ['B', 'G', 'Y', 'P'] (by decide) (by decide)).trans (by decide)) (by decide) pe47 rfl nx47 (by decide) (by decide) (by decide)).trans ?_
  refine Eq.trans (step_lift ['B', 'G', 'Y', 'P'] (?_ : loopRun (honest ['P', 'G', 'O', 'Y']) 5 (some ['B', 'Y', 'P', 'R']) E47 [['B', 'G', 'O', 'R'], ['B', 'G', 'Y', 'P']] = (RunResult.solved ['P', 'G', 'O', 'Y'] 4, [['B', 'Y', 'P', 'R'], ['P', 'G', 'O', 'Y']]))) rfl
  refine (loopRun_step ['P', 'G', 'O', 'Y'] 5 4 ['B', 'Y', 'P', 'R'] E47 [['B', 'G', 'O', 'R'], ['B', 'G', 'Y', 'P']] 2 0 [['P', 'G', 'O', 'Y']] ['P', 'G', 'O', 'Y'] [['B', 'G', 'O', 'R'], ['B', 'G', 'Y', 'P'], ['B', 'Y', 'P', 'R']] rfl ((calc_eq_fastP ['P', 'G', 'O', 'Y'] ['B', 'Y', 'P', 'R'] (by decide) (by decide)).trans (by decide)) (by decide) pe316 rfl (findNextGuess_singleton ['P', 'G', 'O', 'Y'] [['B', 'G', 'O', 'R'], ['B', 'G', 'Y', 'P'], ['B', 'Y', 'P', 'R']]) (by decide) (by decide) (by decide)).trans ?_
  refine Eq.trans (step_lift ['B', 'Y', 'P', 'R'] (?_ : loopRun (honest ['P', 'G', 'O', 'Y']) 4 (some ['P', 'G', 'O', 'Y']) [['P', 'G', 'O', 'Y']] [['B', 'G', 'O', 'R'], ['B', 'G', 'Y', 'P'], ['B', 'Y', 'P', 'R']] = (RunResult.solved ['P', 'G', 'O', 'Y'] 4, [['P', 'G', 'O', 'Y']]))) rfl
  exact loopRun_last ['P', 'G', 'O', 'Y'] 4 3 [['P', 'G', 'O', 'Y']] [['B', 'G', 'O', 'R'], ['B', 'G', 'Y', 'P'], ['B', 'Y', 'P', 'R']] rfl rfl (by decide)

lemma rs318 : loopRun (honest ['P', 'G', 'R', 'B']) 7 none S0 [] =
    (RunResult.solved ['P', 'G', 'R', 'B'] 4, [['B', 'G', 'O', 'R'], ['B', 'O', 'R', 'Y'], ['B', 'R', 'G', 'P'], ['P', 'G', 'R', 'B']]) := by
  refine (loopRun_none' (honest ['P', 'G', 'R', 'B']) 7 S0 []).trans ?_
  refine (loopRun_step ['P', 'G', 'R', 'B'] 7 6 ['B', 'G', 'O', 'R'] S0 [] 2 1 E13 ['B', 'O', 'R', 'Y'] [['B', 'G', 'O', 'R']] rfl ((calc_eq_fastP ['P', 'G', 'R', 'B'] ['B', 'G', 'O', 'R'] (by decide) (by decide)).trans (by decide)) (by decide) pe13 rfl nx13 (by decide) (by decide) (by decide)).trans ?_
  refine Eq.trans (step_lift ['B', 'G', 'O', 'R'] (?_ : loopRun (honest ['P', 'G', 'R', 'B']) 6 (some ['B', 'O', 'R', 'Y']) E13 [['B', 'G', 'O', 'R']] = (RunResult.solved ['P', 'G', 'R', 'B'] 4, [['B', 'O', 'R', 'Y'], ['B', 'R', 'G', 'P'], ['P', 'G', 'R', 'B']]))) rfl
  refine (loopRun_step ['P', 'G', 'R', 'B'] 6 5 ['B', 'O', 'R', 'Y'] E13 [['B', 'G', 'O', 'R']] 1 1 E26 ['B', 'R', 'G', 'P'] [['B', 'G', 'O', 'R'], ['B', 'O', 'R', 'Y']] rfl ((calc_eq_fastP ['P', 'G', 'R', 'B'] ['B', 'O', 'R', 'Y'] (by decide) (by decide)).trans (by decide)) (by decide) pe26 rfl nx26 (by decide) (by decide) (by decide)).trans ?_
  refine Eq.trans (step_lift ['B', 'O', 'R', 'Y'] (?_ : loopRun (honest ['P', 'G', 'R', 'B']) 5 (some ['B', 'R', 'G', 'P']) E26 [['B', 'G', 'O', 'R'], ['B', 'O', 'R', 'Y']] = (RunResult.solved ['P', 'G', 'R', 'B'] 4, [['B', 'R', 'G', 'P'], ['P', 'G', 'R', 'B']]))) rfl
  refine (loopRun_step ['P', 'G', 'R', 'B'] 5 4 ['B', 'R', 'G', 'P'] E26 [['B', 'G', 'O', 'R'], ['B', 'O', 'R', 'Y']] 4 0 [['P', 'G', 'R', 'B']] ['P', 'G', 'R', 'B'] [['B', 'G', 'O', 'R'], ['B', 'O', 'R', 'Y'], ['B', 'R', 'G', 'P']] rfl ((calc_eq_fastP ['P', 'G', 'R', 'B'] ['B', 'R', 'G', 'P'] (by decide) (by decide)).trans (by decide)) (by decide) pe317 rfl (findNextGuess_singleton ['P', 'G', 'R', 'B'] [['B', 'G', 'O', 'R'], ['B', 'O', 'R', 'Y'], ['B', 'R', 'G', 'P']]) (by decide) (by decide) (by decide)).trans ?_
  refine Eq.trans (step_lift ['B', 'R', 'G', 'P'] (?_ : loopRun (honest ['P', 'G', 'R', 'B']) 4 (some ['P', 'G', 'R', 'B']) [['P', 'G', 'R', 'B']] [['B', 'G', 'O', 'R'], ['B', 'O', 'R', 'Y'], ['B', 'R', 'G', 'P']] = (RunResult.solved ['P', 'G', 'R', 'B'] 4, [['P', 'G', 'R', 'B']]))) rfl
  exact loopRun_last ['P', 'G', 'R', 'B'] 4 3 [['P', 'G', 'R', 'B']] [['B', 'G', 'O', 'R'], ['B', 'O', 'R', 'Y'], ['B', 'R', 'G', 'P']] rfl rfl (by decide)

lemma rs319 : loopRun (honest ['P', 'G', 'R', 'O']) 7 none S0 [] =
    (RunResult.solved ['P', 'G', 'R', 'O'] 5, [['B', 'G', 'O', 'R'], ['B', 'O', 'R', 'Y'], ['B', 'R', 'G', 'P'], ['G', 'O', 'P', 'R'], ['P', 'G', 'R', 'O']]) := by
  refine (loopRun_none' (honest ['P', 'G', 'R', 'O']) 7 S0 []).trans ?_
  refine (loopRun_step ['P', 'G', 'R', 'O'] 7 6 ['B', 'G', 'O', 'R'] S0 [] 2 1 E13 ['B', 'O', 'R', 'Y'] [['B', 'G', 'O', 'R']] rfl ((calc_eq_fastP ['P', 'G', 'R', 'O'] ['B', 'G', 'O', 'R'] (by decide) (by decide)).trans (by decide)) (by decide) pe13 rfl nx13 (by decide) (by decide) (by decide)).trans ?_
  refine Eq.trans (step_lift ['B', 'G', 'O', 'R'] (?_ : loopRun (honest ['P', 'G', 'R', 'O']) 6 (some ['B', 'O', 'R', 'Y']) E13 [['B', 'G', 'O', 'R']] = (RunResult.solved ['P', 'G', 'R', 'O'] 5, [['B', 'O', 'R', 'Y'], ['B', 'R', 'G', 'P'], ['G', 'O', 'P', 'R'], ['P', 'G', 'R', 'O']]))) rfl
  refine (loopRun_step ['P', 'G', 'R', 'O'] 6 5 ['B', 'O', 'R', 'Y'] E13 [['B', 'G', 'O', 'R']] 1 1 E26 ['B', 'R', 'G', 'P'] [['B', 'G', 'O', 'R'], ['B', 'O', 'R', 'Y']] rfl ((calc_eq_fastP ['P', 'G', 'R', 'O'] ['B', 'O', 'R', 'Y'] (by decide) (by decide)).trans (by decide)) (by decide) pe26 rfl nx26 (by decide) (by decide) (by decide)).trans ?_
  refine Eq.trans (step_lift ['B', 'O', 'R', 'Y'] (?_ : loopRun (honest ['P', 'G', 'R', 'O']) 5 (some ['B', 'R', 'G', 'P']) E26 [['B', 'G', 'O', 'R'], ['B', 'O', 'R', 'Y']] = (RunResult.solved ['P', 'G', 'R', 'O'] 5, [['B', 'R', 'G', 'P'], ['G', 'O', 'P', 'R'], ['P', 'G', 'R', 'O']]))) rfl
  refine (loopRun_step ['P', 'G', 'R', 'O'] 5 4 ['B', 'R', 'G', 'P'] E26 [['B', 'G', 'O', 'R'], ['B', 'O', 'R', 'Y']] 3 0 E87 ['G', 'O', 'P', 'R'] [['B', 'G', 'O', 'R'], ['B', 'O', 'R', 'Y'], ['B', 'R', 'G', 'P']] rfl ((calc_eq_fastP ['P', 'G', 'R', 'O'] ['B', 'R', 'G', 'P'] (by decide) (by decide)).trans (by decide)) (by decide) pe87 rfl nx87 (by decide) (by decide) (by decide)).trans ?_
  refine Eq.trans (step_lift ['B', 'R', 'G', 'P'] (?_ : loopRun (honest ['P', 'G', 'R', 'O']) 4 (some ['G', 'O', 'P', 'R']) E87 [['B', 'G', 'O', 'R'], ['B', 'O', 'R', 'Y'], ['B', 'R', 'G', 'P']] = (RunResult.solved ['P', 'G', 'R', 'O'] 5, [['G', 'O', 'P', 'R'], ['P', 'G', 'R', 'O']]))) rfl
  refine (loopRun_step ['P', 'G', 'R', 'O'] 4 3 ['G', 'O', 'P', 'R'] E87 [['B', 'G', 'O', 'R'], ['B', 'O', 'R', 'Y'], ['B', 'R', 'G', 'P']] 4 0 [['P', 'G', 'R', 'O']] ['P', 'G', 'R', 'O'] [['B', 'G', 'O', 'R'], ['B', 'O', 'R', 'Y'], ['B', 'R', 'G', 'P'], ['G', 'O', 'P', 'R']] rfl ((calc_eq_fastP ['P', 'G', 'R', 'O'] ['G', 'O', 'P', 'R'] (by decide) (by decide)).trans (by decide)) (by decide) pe318 rfl (findNextGuess_singleton ['P', 'G', 'R', 'O'] [['B', 'G', 'O', 'R'], ['B', 'O', 'R', 'Y'], ['B', 'R', 'G', 'P'], ['G', 'O', 'P', 'R']]) (by decide) (by decide) (by decide)).trans ?_
  refine Eq.trans (step_lift ['G', 'O', 'P', 'R'] (?_ : loopRun (honest ['P', 'G', 'R', 'O']) 3 (some ['P', 'G', 'R', 'O']) [['P', 'G', 'R', 'O']] [['B', 'G', 'O', 'R'], ['B', 'O', 'R', 'Y'], ['B', 'R', 'G', 'P'], ['G', 'O', 'P', 'R']] = (RunResult.solved ['P', 'G', 'R', 'O'] 5, [['P', 'G', 'R', 'O']]))) rfl
  exact loopRun_last ['P', 'G', 'R', 'O'] 3 2 [['P', 'G', 'R', 'O']] [['B', 'G', 'O', 'R'], ['B', 'O', 'R', 'Y'], ['B', 'R', 'G', 'P'], ['G', 'O', 'P', 'R']] rfl rfl (by decide)

lemma rs320 : loopRun (honest ['P', 'G', 'R', 'Y']) 7 none S0 [] =
    (RunResult.solved ['P', 'G', 'R', 'Y'] 4, [['B', 'G', 'O', 'R'], ['B', 'O', 'Y', 'P'], ['G', 'Y', 'P', 'R'], ['P', 'G', 'R', 'Y']]) := by
  refine (loopRun_none' (honest ['P', 'G', 'R', 'Y']) 7 S0 []).trans ?_
  refine (loopRun_step ['P', 'G', 'R', 'Y'] 7 6 ['B', 'G', 'O', 'R'] S0 [] 1 1 E20 ['B', 'O', 'Y', 'P'] [['B', 'G', 'O', 'R']] rfl ((calc_eq_fastP ['P', 'G', 'R', 'Y'] ['B', 'G', 'O', 'R'] (by decide) (by decide)).trans (by decide)) (by decide) pe20 rfl nx20 (by decide) (by decide) (by decide)).trans ?_
  refine Eq.trans (step_lift ['B', 'G', 'O', 'R'] (?_ : loopRun (honest ['P', 'G', 'R', 'Y']) 6 (some ['B', 'O', 'Y', 'P']) E20 [['B', 'G', 'O', 'R']] = (RunResult.solved ['P', 'G', 'R', 'Y'] 4, [['B', 'O', 'Y', 'P'], ['G', 'Y', 'P', 'R'], ['P', 'G', 'R', 'Y']]))) rfl
  refine (loopRun_step ['P', 'G', 'R', 'Y'] 6 5 ['B', 'O', 'Y', 'P'] E20 [['B', 'G', 'O', 'R']] 2 0 E109 ['G', 'Y', 'P', 'R'] [['B', 'G', 'O', 'R'], ['B', 'O', 'Y', 'P']] rfl ((calc_eq_fastP ['P', 'G', 'R', 'Y'] ['B', 'O', 'Y', 'P'] (by decide) (by decide)).trans (by decide)) (by decide) pe109 rfl nx109 (by decide) (by decide) (by decide)).trans ?_
  refine Eq.trans (step_lift ['B', 'O', 'Y', 'P'] (?_ : loopRun (honest ['P', 'G', 'R', 'Y']) 5 (some ['G', 'Y', 'P', 'R']) E109 [['B', 'G', 'O', 'R'], ['B', 'O', 'Y', 'P']] = (RunResult.solved ['P', 'G', 'R', 'Y'] 4, [['G', 'Y', 'P', 'R'], ['P', 'G', 'R', 'Y']]))) rfl
  refine (loopRun_step ['P', 'G', 'R', 'Y'] 5 4 ['G', 'Y', 'P', 'R'] E109 [['B', 'G', 'O', 'R'], ['B', 'O', 'Y', 'P']] 4 0 [['P', 'G', 'R', 'Y']] ['P', 'G', 'R', 'Y'] [['B', 'G', 'O', 'R'], ['B', 'O', 'Y', 'P'], ['G', 'Y', 'P', 'R']] rfl ((calc_eq_fastP ['P', 'G', 'R', 'Y'] ['G', 'Y', 'P', 'R'] (by decide) (by decide)).trans (by decide)) (by decide) pe319 rfl (findNextGuess_singleton ['P', 'G', 'R', 'Y'] [['B', 'G', 'O', 'R'], ['B', 'O', 'Y', 'P'], ['G', 'Y', 'P', 'R']]) (by decide) (by decide) (by decide)).trans ?_
  refine Eq.trans (step_lift ['G', 'Y', 'P', 'R'] (?_ : loopRun (honest ['P', 'G', 'R', 'Y']) 4 (some ['P', 'G', 'R', 'Y']) [['P', 'G', 'R', 'Y']] [['B', 'G', 'O', 'R'], ['B', 'O', 'Y', 'P'], ['G', 'Y', 'P', 'R']] = (RunResult.solved ['P', 'G', 'R', 'Y'] 4, [['P', 'G', 'R', 'Y']]))) rfl
  exact loopRun_last ['P', 'G', 'R', 'Y'] 4 3 [['P', 'G', 'R', 'Y']] [['B', 'G', 'O', 'R'], ['B', 'O', 'Y', 'P'], ['G', 'Y', 'P', 'R']] rfl rfl (by decide)

lemma rs321 : loopRun (honest ['P', 'G', 'Y', 'B']) 7 none S0 [] =
    (RunResult.solved ['P', 'G', 'Y', 'B'] 5, [['B', 'G', 'O', 'R'], ['B', 'O', 'Y', 'P'], ['B', 'Y', 'P', 'G'], ['Y', 'G', 'B', 'P'], ['P', 'G', 'Y', 'B']]) := by
  refine (loopRun_none' (honest ['P', 'G', 'Y', 'B']) 7 S0 []).trans ?_
  refine (loopRun_step ['P', 'G', 'Y', 'B'] 7 6 ['B', 'G', 'O', 'R'] S0 [] 1 1 E20 ['B', 'O', 'Y', 'P'] [['B', 'G', 'O', 'R']] rfl ((calc_eq_fastP ['P', 'G', 'Y', 'B'] ['B', 'G', 'O', 'R'] (by decide) (by decide)).trans (by decide)) (by decide) pe20 rfl nx20 (by decide) (by decide) (by decide)).trans ?_
  refine Eq.trans (step_lift ['B', 'G', 'O', 'R'] (?_ : loopRun (honest ['P', 'G', 'Y', 'B']) 6 (some ['B', 'O', 'Y', 'P']) E20 [['B', 'G', 'O', 'R']] = (RunResult.solved ['P', 'G', 'Y', 'B'] 5, [['B', 'O', 'Y', 'P'], ['B', 'Y', 'P', 'G'], ['Y', 'G', 'B', 'P'], ['P', 'G', 'Y', 'B']]))) rfl
  refine (loopRun_step ['P', 'G', 'Y', 'B'] 6 5 ['B', 'O', 'Y', 'P'] E20 [['B', 'G', 'O', 'R']] 2 1 E35 ['B', 'Y', 'P', 'G'] [['B', 'G', 'O', 'R'], ['B', 'O', 'Y', 'P']] rfl ((calc_eq_fastP ['P', 'G', 'Y', 'B'] ['B', 'O', 'Y', 'P'] (by decide) (by decide)).trans (by decide)) (by decide) pe35 rfl nx35 (by decide) (by decide) (by decide)).trans ?_
  refine Eq.trans (step_lift ['B', 'O', 'Y', 'P'] (?_ : loopRun (honest ['P', 'G', 'Y', 'B']) 5 (some ['B', 'Y', 'P', 'G']) E35 [['B', 'G', 'O', 'R'], ['B', 'O', 'Y', 'P']] = (RunResult.solved ['P', 'G', 'Y', 'B'] 5, [['B', 'Y', 'P', 'G'], ['Y', 'G', 'B', 'P'], ['P', 'G', 'Y', 'B']]))) rfl
  refine (loopRun_step ['P', 'G', 'Y', 'B'] 5 4 ['B', 'Y', 'P', 'G'] E35 [['B', 'G', 'O', 'R'], ['B', 'O', 'Y', 'P']] 4 0 E253 ['Y', 'G', 'B', 'P'] [['B', 'G', 'O', 'R'], ['B', 'O', 'Y', 'P'], ['B', 'Y', 'P', 'G']] rfl ((calc_eq_fastP ['P', 'G', 'Y', 'B'] ['B', 'Y', 'P', 'G'] (by decide) (by decide)).trans (by decide)) (by decide) pe253 rfl nx253 (by decide) (by decide) (by decide)).trans ?_
  refine Eq.trans (step_lift ['B', 'Y', 'P', 'G'] (?_ : loopRun (honest ['P', 'G', 'Y', 'B']) 4 (some ['Y', 'G', 'B', 'P']) E253 [['B', 'G', 'O', 'R'], ['B', 'O', 'Y', 'P'], ['B', 'Y', 'P', 'G']] = (RunResult.solved ['P', 'G', 'Y', 'B'] 5, [['Y', 'G', 'B', 'P'], ['P', 'G', 'Y', 'B']]))) rfl
  refine (loopRun_step ['P', 'G', 'Y', 'B'] 4 3 ['Y', 'G', 'B', 'P'] E253 [['B', 'G', 'O', 'R'], ['B', 'O', 'Y', 'P'], ['B', 'Y', 'P', 'G']] 3 1 [['P', 'G', 'Y', 'B']] ['P', 'G', 'Y', 'B'] [['B', 'G', 'O', 'R'], ['B', 'O', 'Y', 'P'], ['B', 'Y', 'P', 'G'], ['Y', 'G', 'B', 'P']] rfl ((calc_eq_fastP ['P', 'G', 'Y', 'B'] ['Y', 'G', 'B', 'P'] (by decide) (by decide)).trans (by decide)) (by decide) pe320 rfl (findNextGuess_singleton ['P', 'G', 'Y', 'B'] [['B', 'G', 'O', 'R'], ['B', 'O', 'Y', 'P'], ['B', 'Y', 'P', 'G'], ['Y', 'G', 'B', 'P']]) (by decide) (by decide) (by decide)).trans ?_
  refine Eq.trans (step_lift ['Y', 'G', 'B', 'P'] (?_ : loopRun (honest ['P', 'G', 'Y', 'B']) 3 (some ['P', 'G', 'Y', 'B']) [['P', 'G', 'Y', 'B']] [['B', 'G', 'O', 'R'], ['B', 'O', 'Y', 'P'], ['B', 'Y', 'P', 'G'], ['Y', 'G', 'B', 'P']] = (RunResult.solved ['P', 'G', 'Y', 'B'] 5, [['P', 'G', 'Y', 'B']]))) rfl
  exact loopRun_last ['P', 'G', 'Y', 'B'] 3 2 [['P', 'G', 'Y', 'B']] [['B', 'G', 'O', 'R'], ['B', 'O', 'Y', 'P'], ['B', 'Y', 'P', 'G'], ['Y', 'G', 'B', 'P']] rfl rfl (by decide)

lemma rs322 : loopRun (honest ['P', 'G', 'Y', 'O']) 7 none S0 [] =
    (RunResult.solved ['P', 'G', 'Y', 'O'] 5, [['B', 'G', 'O', 'R'], ['B', 'O', 'Y', 'P'], ['B', 'Y', 'P', 'G'], ['P', 'B', 'Y', 'R'], ['P', 'G', 'Y', 'O']]) := by
  refine (loopRun_none' (honest ['P', 'G', 'Y', 'O']) 7 S0 []).trans ?_
  refine (loopRun_step ['P', 'G', 'Y', 'O'] 7 6 ['B', 'G', 'O', 'R'] S0 [] 1 1 E20 ['B', 'O', 'Y', 'P'] [['B', 'G', 'O', 'R']] rfl ((calc_eq_fastP ['P', 'G', 'Y', 'O'] ['B', 'G', 'O', 'R'] (by decide) (by decide)).trans (by decide)) (by decide) pe20 rfl nx20 (by decide) (by decide) (by decide)).trans ?_
  refine Eq.trans (step_lift ['B', 'G', 'O', 'R'] (?_ : loopRun (honest ['P', 'G', 'Y', 'O']) 6 (some ['B', 'O', 'Y', 'P']) E20 [['B', 'G', 'O', 'R']] = (RunResult.solved ['P', 'G', 'Y', 'O'] 5, [['B', 'O', 'Y', 'P'], ['B', 'Y', 'P', 'G'], ['P', 'B', 'Y', 'R'], ['P', 'G', 'Y', 'O']]))) rfl
  refine (loopRun_step ['P', 'G', 'Y', 'O'] 6 5 ['B', 'O', 'Y', 'P'] E20 [['B', 'G', 'O', 'R']] 2 1 E35 ['B', 'Y', 'P', 'G'] [['B', 'G', 'O', 'R'], ['B', 'O', 'Y', 'P']] rfl ((calc_eq_fastP ['P', 'G', 'Y', 'O'] ['B', 'O', 'Y', 'P'] (by decide) (by decide)).trans (by decide)) (by decide) pe35 rfl nx35 (by decide) (by decide) (by decide)).trans ?_
  refine Eq.trans (step_lift ['B', 'O', 'Y', 'P'] (?_ : loopRun (honest ['P', 'G', 'Y', 'O']) 5 (some ['B', 'Y', 'P', 'G']) E35 [['B', 'G', 'O', 'R'], ['B', 'O', 'Y', 'P']] = (RunResult.solved ['P', 'G', 'Y', 'O'] 5, [['B', 'Y', 'P', 'G'], ['P', 'B', 'Y', 'R'], ['P', 'G', 'Y', 'O']]))) rfl
  refine (loopRun_step ['P', 'G', 'Y', 'O'] 5 4 ['B', 'Y', 'P', 'G'] E35 [['B', 'G', 'O', 'R'], ['B', 'O', 'Y', 'P']] 3 0 E310 ['P', 'B', 'Y', 'R'] [['B', 'G', 'O', 'R'], ['B', 'O', 'Y', 'P'], ['B', 'Y', 'P', 'G']] rfl ((calc_eq_fastP ['P', 'G', 'Y', 'O'] ['B', 'Y', 'P', 'G'] (by decide) (by decide)).trans (by decide)) (by decide) pe310 rfl nx310 (by decide) (by decide) (by decide)).trans ?_
  refine Eq.trans (step_lift ['B', 'Y', 'P', 'G'] (?_ : loopRun (honest ['P', 'G', 'Y', 'O']) 4 (some ['P', 'B', 'Y', 'R']) E310 [['B', 'G', 'O', 'R'], ['B', 'O', 'Y', 'P'], ['B', 'Y', 'P', 'G']] = (RunResult.solved ['P', 'G', 'Y', 'O'] 5, [['P', 'B', 'Y', 'R'], ['P', 'G', 'Y', 'O']]))) rfl
  refine (loopRun_step ['P', 'G', 'Y', 'O'] 4 3 ['P', 'B', 'Y', 'R'] E310 [['B', 'G', 'O', 'R'], ['B', 'O', 'Y', 'P'], ['B', 'Y', 'P', 'G']] 0 2 [['P', 'G', 'Y', 'O']] ['P', 'G', 'Y', 'O'] [['B', 'G', 'O', 'R'], ['B', 'O', 'Y', 'P'], ['B', 'Y', 'P', 'G'], ['P', 'B', 'Y', 'R']] rfl ((calc_eq_fastP ['P', 'G', 'Y', 'O'] ['P', 'B', 'Y', 'R'] (by decide) (by decide)).trans (by decide)) (by decide) pe321 rfl (findNextGuess_singleton ['P', 'G', 'Y', 'O'] [['B', 'G', 'O', 'R'], ['B', 'O', 'Y', 'P'], ['B', 'Y', 'P', 'G'], ['P', 'B', 'Y', 'R']]) (by decide) (by decide) (by decide)).trans ?_
  refine Eq.trans (step_lift ['P', 'B', 'Y', 'R'] (?_ : loopRun (honest ['P', 'G', 'Y', 'O']) 3 (some ['P', 'G', 'Y', 'O']) [['P', 'G', 'Y', 'O']] [['B', 'G', 'O', 'R'], ['B', 'O', 'Y', 'P'], ['B', 'Y', 'P', 'G'], ['P', 'B', 'Y', 'R']] = (RunResult.solved ['P', 'G', 'Y', 'O'] 5, [['P', 'G', 'Y', 'O']]))) rfl
  exact loopRun_last ['P', 'G', 'Y', 'O'] 3 2 [['P', 'G', 'Y', 'O']] [['B', 'G', 'O', 'R'], ['B', 'O', 'Y', 'P'], ['B', 'Y', 'P', 'G'], ['P', 'B', 'Y', 'R']] rfl rfl (by decide)

lemma rs323 : loopRun (honest ['P', 'G', 'Y', 'R']) 7 none S0 [] =
    (RunResult.solved ['P', 'G', 'Y', 'R'] 4, [['B', 'G', 'O', 'R'], ['B', 'G', 'Y', 'P'], ['B', 'Y', 'O', 'P'], ['P', 'G', 'Y', 'R']]) := by
  refine (loopRun_none' (honest ['P', 'G', 'Y', 'R']) 7 S0 []).trans ?_
  refine (loopRun_step ['P', 'G', 'Y', 'R'] 7 6 ['B', 'G', 'O', 'R'] S0 [] 0 2 E8 ['B', 'G', 'Y', 'P'] [['B', 'G', 'O', 'R']] rfl ((calc_eq_fastP ['P', 'G', 'Y', 'R'] ['B', 'G', 'O', 'R'] (by decide) (by decide)).trans (by decide)) (by decide) pe8 rfl nx8 (by decide) (by decide) (by decide)).trans ?_
  refine Eq.trans (step_lift ['B', 'G', 'O', 'R'] (?_ : loopRun (honest ['P', 'G', 'Y', 'R']) 6 (some ['B', 'G', 'Y', 'P']) E8 [['B', 'G', 'O', 'R']] = (RunResult.solved ['P', 'G', 'Y', 'R'] 4, [['B', 'G', 'Y', 'P'], ['B', 'Y', 'O', 'P'], ['P', 'G', 'Y', 'R']]))) rfl
  refine (loopRun_step ['P', 'G', 'Y', 'R'] 6 5 ['B', 'G', 'Y', 'P'] E8 [['B', 'G', 'O', 'R']] 1 2 E42 ['B', 'Y', 'O', 'P'] [['B', 'G', 'O', 'R'], ['B', 'G', 'Y', 'P']] rfl ((calc_eq_fastP ['P', 'G', 'Y', 'R'] ['B', 'G', 'Y', 'P'] (by decide) (by decide)).trans (by decide)) (by decide) pe42 rfl nx42 (by decide) (by decide) (by decide)).trans ?_
  refine Eq.trans (step_lift ['B', 'G', 'Y', 'P'] (?_ : loopRun (honest ['P', 'G', 'Y', 'R']) 5 (some ['B', 'Y', 'O', 'P']) E42 [['B', 'G', 'O', 'R'], ['B', 'G', 'Y', 'P']] = (RunResult.solved ['P', 'G', 'Y', 'R'] 4, [['B', 'Y', 'O', 'P'], ['P', 'G', 'Y', 'R']]))) rfl
  refine (loopRun_step ['P', 'G', 'Y', 'R'] 5 4 ['B', 'Y', 'O', 'P'] E42 [['B', 'G', 'O', 'R'], ['B', 'G', 'Y', 'P']] 2 0 [['P', 'G', 'Y', 'R']] ['P', 'G', 'Y', 'R'] [['B', 'G', 'O', 'R'], ['B', 'G', 'Y', 'P'], ['B', 'Y', 'O', 'P']] rfl ((calc_eq_fastP ['P', 'G', 'Y', 'R'] ['B', 'Y', 'O', 'P'] (by decide) (by decide)).trans (by decide)) (by decide) pe322 rfl (findNextGuess_singleton ['P', 'G', 'Y', 'R'] [['B', 'G', 'O', 'R'], ['B', 'G', 'Y', 'P'], ['B', 'Y', 'O', 'P']]) (by decide) (by decide) (by decide)).trans ?_
  refine Eq.trans (step_lift ['B', 'Y', 'O', 'P'] (?_ : loopRun (honest ['P', 'G', 'Y', 'R']) 4 (some ['P', 'G', 'Y', 'R']) [['P', 'G', 'Y', 'R']] [['B', 'G', 'O', 'R'], ['B', 'G', 'Y', 'P'], ['B', 'Y', 'O', 'P']] = (RunResult.solved ['P', 'G', 'Y', 'R'] 4, [['P', 'G', 'Y', 'R']]))) rfl
  exact loopRun_last ['P', 'G', 'Y', 'R'] 4 3 [['P', 'G', 'Y', 'R']] [['B', 'G', 'O', 'R'], ['B', 'G', 'Y', 'P'], ['B', 'Y', 'O', 'P']] rfl rfl (by decide)

lemma rs324 : loopRun (honest ['P', 'O', 'B', 'G']) 7 none S0 [] =
    (RunResult.solved ['P', 'O', 'B', 'G'] 5, [['B', 'G', 'O', 'R'], ['G', 'O', 'R', 'Y'], ['R', 'O', 'B', 'P'], ['G', 'R', 'B', 'P'], ['P', 'O', 'B', 'G']]) := by
  refine (loopRun_none' (honest ['P', 'O', 'B', 'G']) 7 S0 []).trans ?_
  refine (loopRun_step ['P', 'O', 'B', 'G'] 7 6 ['B', 'G', 'O', 'R'] S0 [] 3 0 E65 ['G', 'O', 'R', 'Y'] [['B', 'G', 'O', 'R']] rfl ((calc_eq_fastP ['P', 'O', 'B', 'G'] ['B', 'G', 'O', 'R'] (by decide) (by decide)).trans (by decide)) (by decide) pe65 rfl nx65 (by decide) (by decide) (by decide)).trans ?_
  refine Eq.trans (step_lift ['B', 'G', 'O', 'R'] (?_ : loopRun (honest ['P', 'O', 'B', 'G']) 6 (some ['G', 'O', 'R', 'Y']) E65 [['B', 'G', 'O', 'R']] = (RunResult.solved ['P', 'O', 'B', 'G'] 5, [['G', 'O', 'R', 'Y'], ['R', 'O', 'B', 'P'], ['G', 'R', 'B', 'P'], ['P', 'O', 'B', 'G']]))) rfl
  refine (loopRun_step ['P', 'O', 'B', 'G'] 6 5 ['G', 'O', 'R', 'Y'] E65 [['B', 'G', 'O', 'R']] 1 1 E75 ['R', 'O', 'B', 'P'] [['B', 'G', 'O', 'R'], ['G', 'O', 'R', 'Y']] rfl ((calc_eq_fastP ['P', 'O', 'B', 'G'] ['G', 'O', 'R', 'Y'] (by decide) (by decide)).trans (by decide)) (by decide) pe75 rfl nx75 (by decide) (by decide) (by decide)).trans ?_
  refine Eq.trans (step_lift ['G', 'O', 'R', 'Y'] (?_ : loopRun (honest ['P', 'O', 'B', 'G']) 5 (some ['R', 'O', 'B', 'P']) E75 [['B', 'G', 'O', 'R'], ['G', 'O', 'R', 'Y']] = (RunResult.solved ['P', 'O', 'B', 'G'] 5, [['R', 'O', 'B', 'P'], ['G', 'R', 'B', 'P'], ['P', 'O', 'B', 'G']]))) rfl
  refine (loopRun_step ['P', 'O', 'B', 'G'] 5 4 ['R', 'O', 'B', 'P'] E75 [['B', 'G', 'O', 'R'], ['G', 'O', 'R', 'Y']] 1 2 E91 ['G', 'R', 'B', 'P'] [['B', 'G', 'O', 'R'], ['G', 'O', 'R', 'Y'], ['R', 'O', 'B', 'P']] rfl ((calc_eq_fastP ['P', 'O', 'B', 'G'] ['R', 'O', 'B', 'P'] (by decide) (by decide)).trans (by decide)) (by decide) pe91 rfl nx91 (by decide) (by decide) (by decide)).trans ?_
  refine Eq.trans (step_lift ['R', 'O', 'B', 'P'] (?_ : loopRun (honest ['P', 'O', 'B', 'G']) 4 (some ['G', 'R', 'B', 'P']) E91 [['B', 'G', 'O', 'R'], ['G', 'O', 'R', 'Y'], ['R', 'O', 'B', 'P']] = (RunResult.solved ['P', 'O', 'B', 'G'] 5, [['G', 'R', 'B', 'P'], ['P', 'O', 'B', 'G']]))) rfl
  refine (loopRun_step ['P', 'O', 'B', 'G'] 4 3 ['G', 'R', 'B', 'P'] E91 [['B', 'G', 'O', 'R'], ['G', 'O', 'R', 'Y'], ['R', 'O', 'B', 'P']] 2 1 [['P', 'O', 'B', 'G']] ['P', 'O', 'B', 'G'] [['B', 'G', 'O', 'R'], ['G', 'O', 'R', 'Y'], ['R', 'O', 'B', 'P'], ['G', 'R', 'B', 'P']] rfl ((calc_eq_fastP ['P', 'O', 'B', 'G'] ['G', 'R', 'B', 'P'] (by decide) (by decide)).trans (by decide)) (by decide) pe323 rfl (findNextGuess_singleton ['P', 'O', 'B', 'G'] [['B', 'G', 'O', 'R'], ['G', 'O', 'R', 'Y'], ['R', 'O', 'B', 'P'], ['G', 'R', 'B', 'P']]) (by decide) (by decide) (by decide)).trans ?_
  refine Eq.trans (step_lift ['G', 'R', 'B', 'P'] (?_ : loopRun (honest ['P', 'O', 'B', 'G']) 3 (some ['P', 'O', 'B', 'G']) [['P', 'O', 'B', 'G']] [['B', 'G', 'O', 'R'], ['G', 'O', 'R', 'Y'], ['R', 'O', 'B', 'P'], ['G', 'R', 'B', 'P']] = (RunResult.solved ['P', 'O', 'B', 'G'] 5, [['P', 'O', 'B', 'G']]))) rfl
  exact loopRun_last ['P', 'O', 'B', 'G'] 3 2 [['P', 'O', 'B', 'G']] [['B', 'G', 'O', 'R'], ['G', 'O', 'R', 'Y'], ['R', 'O', 'B', 'P'], ['G', 'R', 'B', 'P']] rfl rfl (by decide)

lemma rs325 : loopRun (honest ['P', 'O', 'B', 'R']) 7 none S0 [] =
    (RunResult.solved ['P', 'O', 'B', 'R'] 4, [['B', 'G', 'O', 'R'], ['B', 'O', 'R', 'Y'], ['G', 'R', 'O', 'Y'], ['P', 'O', 'B', 'R']]) := by
  refine (loopRun_none' (honest ['P', 'O', 'B', 'R']) 7 S0 []).trans ?_
  refine (loopRun_step ['P', 'O', 'B', 'R'] 7 6 ['B', 'G', 'O', 'R'] S0 [] 2 1 E13 ['B', 'O', 'R', 'Y'] [['B', 'G', 'O', 'R']] rfl ((calc_eq_fastP ['P', 'O', 'B', 'R'] ['B', 'G', 'O', 'R'] (by decide) (by decide)).trans (by decide)) (by decide) pe13 rfl nx13 (by decide) (by decide) (by decide)).trans ?_
  refine Eq.trans (step_lift ['B', 'G', 'O', 'R'] (?_ : loopRun (honest ['P', 'O', 'B', 'R']) 6 (some ['B', 'O', 'R', 'Y']) E13 [['B', 'G', 'O', 'R']] = (RunResult.solved ['P', 'O', 'B', 'R'] 4, [['B', 'O', 'R', 'Y'], ['G', 'R', 'O', 'Y'], ['P', 'O', 'B', 'R']]))) rfl
  refine (loopRun_step ['P', 'O', 'B', 'R'] 6 5 ['B', 'O', 'R', 'Y'] E13 [['B', 'G', 'O', 'R']] 2 1 E29 ['G', 'R', 'O', 'Y'] [['B', 'G', 'O', 'R'], ['B', 'O', 'R', 'Y']] rfl ((calc_eq_fastP ['P', 'O', 'B', 'R'] ['B', 'O', 'R', 'Y'] (by decide) (by decide)).trans (by decide)) (by decide) pe29 rfl nx29 (by decide) (by decide) (by decide)).trans ?_
  refine Eq.trans (step_lift ['B', 'O', 'R', 'Y'] (?_ : loopRun (honest ['P', 'O', 'B', 'R']) 5 (some ['G', 'R', 'O', 'Y']) E29 [['B', 'G', 'O', 'R'], ['B', 'O', 'R', 'Y']] = (RunResult.solved ['P', 'O', 'B', 'R'] 4, [['G', 'R', 'O', 'Y'], ['P', 'O', 'B', 'R']]))) rfl
  refine (loopRun_step ['P', 'O', 'B', 'R'] 5 4 ['G', 'R', 'O', 'Y'] E29 [['B', 'G', 'O', 'R'], ['B', 'O', 'R', 'Y']] 2 0 [['P', 'O', 'B', 'R']] ['P', 'O', 'B', 'R'] [['B', 'G', 'O', 'R'], ['B', 'O', 'R', 'Y'], ['G', 'R', 'O', 'Y']] rfl ((calc_eq_fastP ['P', 'O', 'B', 'R'] ['G', 'R', 'O', 'Y'] (by decide) (by decide)).trans (by decide)) (by decide) pe324 rfl (findNextGuess_singleton ['P', 'O', 'B', 'R'] [['B', 'G', 'O', 'R'], ['B', 'O', 'R', 'Y'], ['G', 'R', 'O', 'Y']]) (by decide) (by decide) (by decide)).trans ?_
  refine Eq.trans (step_lift ['G', 'R', 'O', 'Y'] (?_ : loopRun (honest ['P', 'O', 'B', 'R']) 4 (some ['P', 'O', 'B', 'R']) [['P', 'O', 'B', 'R']] [['B', 'G', 'O', 'R'], ['B', 'O', 'R', 'Y'], ['G', 'R', 'O', 'Y']] = (RunResult.solved ['P', 'O', 'B', 'R'] 4, [['P', 'O', 'B', 'R']]))) rfl
  exact loopRun_last ['P', 'O', 'B', 'R'] 4 3 [['P', 'O', 'B', 'R']] [['B', 'G', 'O', 'R'], ['B', 'O', 'R', 'Y'], ['G', 'R', 'O', 'Y']] rfl rfl (by decide)

lemma rs326 : loopRun (honest ['P', 'O', 'B', 'Y']) 7 none S0 [] =
    (RunResult.solved ['P', 'O', 'B', 'Y'] 5, [['B', 'G', 'O', 'R'], ['G', 'Y', 'R', 'P'], ['O', 'B', 'P', 'Y'], ['O', 'P', 'Y', 'B'], ['P', 'O', 'B', 'Y']]) := by
  refine (loopRun_none' (honest ['P', 'O', 'B', 'Y']) 7 S0 []).trans ?_
  refine (loopRun_step ['P', 'O', 'B', 'Y'] 7 6 ['B', 'G', 'O', 'R'] S0 [] 2 0 E72 ['G', 'Y', 'R', 'P'] [['B', 'G', 'O', 'R']] rfl ((calc_eq_fastP ['P', 'O', 'B', 'Y'] ['B', 'G', 'O', 'R'] (by decide) (by decide)).trans (by decide)) (by decide) pe72 rfl nx72 (by decide) (by decide) (by decide)).trans ?_
  refine Eq.trans (step_lift ['B', 'G', 'O', 'R'] (?_ : loopRun (honest ['P', 'O', 'B', 'Y']) 6 (some ['G', 'Y', 'R', 'P']) E72 [['B', 'G', 'O', 'R']] = (RunResult.solved ['P', 'O', 'B', 'Y'] 5, [['G', 'Y', 'R', 'P'], ['O', 'B', 'P', 'Y'], ['O', 'P', 'Y', 'B'], ['P', 'O', 'B', 'Y']]))) rfl
  refine (loopRun_step ['P', 'O', 'B', 'Y'] 6 5 ['G', 'Y', 'R', 'P'] E72 [['B', 'G', 'O', 'R']] 2 0 E133 ['O', 'B', 'P', 'Y'] [['B', 'G', 'O', 'R'], ['G', 'Y', 'R', 'P']] rfl ((calc_eq_fastP ['P', 'O', 'B', 'Y'] ['G', 'Y', 'R', 'P'] (by decide) (by decide)).trans (by decide)) (by decide) pe133 rfl nx133 (by decide) (by decide) (by decide)).trans ?_
  refine Eq.trans (step_lift ['G', 'Y', 'R', 'P'] (?_ : loopRun (honest ['P', 'O', 'B', 'Y']) 5 (some ['O', 'B', 'P', 'Y']) E133 [['B', 'G', 'O', 'R'], ['G', 'Y', 'R', 'P']] = (RunResult.solved ['P', 'O', 'B', 'Y'] 5, [['O', 'B', 'P', 'Y'], ['O', 'P', 'Y', 'B'], ['P', 'O', 'B', 'Y']]))) rfl
  refine (loopRun_step ['P', 'O', 'B', 'Y'] 5 4 ['O', 'B', 'P', 'Y'] E133 [['B', 'G', 'O', 'R'], ['G', 'Y', 'R', 'P']] 3 1 E180 ['O', 'P', 'Y', 'B'] [['B', 'G', 'O', 'R'], ['G', 'Y', 'R', 'P'], ['O', 'B', 'P', 'Y']] rfl ((calc_eq_fastP ['P', 'O', 'B', 'Y'] ['O', 'B', 'P', 'Y'] (by decide) (by decide)).trans (by decide)) (by decide) pe180 rfl nx180 (by decide) (by decide) (by decide)).trans ?_
  refine Eq.trans (step_lift ['O', 'B', 'P', 'Y'] (?_ : loopRun (honest ['P', 'O', 'B', 'Y']) 4 (some ['O', 'P', 'Y', 'B']) E180 [['B', 'G', 'O', 'R'], ['G', 'Y', 'R', 'P'], ['O', 'B', 'P', 'Y']] = (RunResult.solved ['P', 'O', 'B', 'Y'] 5, [['O', 'P', 'Y', 'B'], ['P', 'O', 'B', 'Y']]))) rfl
  refine (loopRun_step ['P', 'O', 'B', 'Y'] 4 3 ['O', 'P', 'Y', 'B'] E180 [['B', 'G', 'O', 'R'], ['G', 'Y', 'R', 'P'], ['O', 'B', 'P', 'Y']] 4 0 [['P', 'O', 'B', 'Y']] ['P', 'O', 'B', 'Y'] [['B', 'G', 'O', 'R'], ['G', 'Y', 'R', 'P'], ['O', 'B', 'P', 'Y'], ['O', 'P', 'Y', 'B']] rfl ((calc_eq_fastP ['P', 'O', 'B', 'Y'] ['O', 'P', 'Y', 'B'] (by decide) (by decide)).trans (by decide)) (by decide) pe325 rfl (findNextGuess_singleton ['P', 'O', 'B', 'Y'] [['B', 'G', 'O', 'R'], ['G', 'Y', 'R', 'P'], ['O', 'B', 'P', 'Y'], ['O', 'P', 'Y', 'B']]) (by decide) (by decide) (by decide)).trans ?_
  refine Eq.trans (step_lift ['O', 'P', 'Y', 'B'] (?_ : loopRun (honest ['P', 'O', 'B', 'Y']) 3 (some ['P', 'O', 'B', 'Y']) [['P', 'O', 'B', 'Y']] [['B', 'G', 'O', 'R'], ['G', 'Y', 'R', 'P'], ['O', 'B', 'P', 'Y'], ['O', 'P', 'Y', 'B']] = (RunResult.solved ['P', 'O', 'B', 'Y'] 5, [['P', 'O', 'B', 'Y']]))) rfl
  exact loopRun_last ['P', 'O', 'B', 'Y'] 3 2 [['P', 'O', 'B', 'Y']] [['B', 'G', 'O', 'R'], ['G', 'Y', 'R', 'P'], ['O', 'B', 'P', 'Y'], ['O', 'P', 'Y', 'B']] rfl rfl (by decide)

lemma rs327 : loopRun (honest ['P', 'O', 'G', 'B']) 7 none S0 [] =
    (RunResult.solved ['P', 'O', 'G', 'B'] 5, [['B', 'G', 'O', 'R'], ['G', 'O', 'R', 'Y'], ['R', 'O', 'B', 'P'], ['G', 'P', 'B', 'O'], ['P', 'O', 'G', 'B']]) := by
  refine (loopRun_none' (honest ['P', 'O', 'G', 'B']) 7 S0 []).trans ?_
  refine (loopRun_step ['P', 'O', 'G', 'B'] 7 6 ['B', 'G', 'O', 'R'] S0 [] 3 0 E65 ['G', 'O', 'R', 'Y'] [['B', 'G', 'O', 'R']] rfl ((calc_eq_fastP ['P', 'O', 'G', 'B'] ['B', 'G', 'O', 'R'] (by decide) (by decide)).trans (by decide)) (by decide) pe65 rfl nx65 (by decide) (by decide) (by decide)).trans ?_
  refine Eq.trans (step_lift ['B', 'G', 'O', 'R'] (?_ : loopRun (honest ['P', 'O', 'G', 'B']) 6 (some ['G', 'O', 'R', 'Y']) E65 [['B', 'G', 'O', 'R']] = (RunResult.solved ['P', 'O', 'G', 'B'] 5, [['G', 'O', 'R', 'Y'], ['R', 'O', 'B', 'P'], ['G', 'P', 'B', 'O'], ['P', 'O', 'G', 'B']]))) rfl
  refine (loopRun_step ['P', 'O', 'G', 'B'] 6 5 ['G', 'O', 'R', 'Y'] E65 [['B', 'G', 'O', 'R']] 1 1 E75 ['R', 'O', 'B', 'P'] [['B', 'G', 'O', 'R'], ['G', 'O', 'R', 'Y']] rfl ((calc_eq_fastP ['P', 'O', 'G', 'B'] ['G', 'O', 'R', 'Y'] (by decide) (by decide)).trans (by decide)) (by decide) pe75 rfl nx75 (by decide) (by decide) (by decide)).trans ?_
  refine Eq.trans (step_lift ['G', 'O', 'R', 'Y'] (?_ : loopRun (honest ['P', 'O', 'G', 'B']) 5 (some ['R', 'O', 'B', 'P']) E75 [['B', 'G', 'O', 'R'], ['G', 'O', 'R', 'Y']] = (RunResult.solved ['P', 'O', 'G', 'B'] 5, [['R', 'O', 'B', 'P'], ['G', 'P', 'B', 'O'], ['P', 'O', 'G', 'B']]))) rfl
  refine (loopRun_step ['P', 'O', 'G', 'B'] 5 4 ['R', 'O', 'B', 'P'] E75 [['B', 'G', 'O', 'R'], ['G', 'O', 'R', 'Y']] 2 1 E110 ['G', 'P', 'B', 'O'] [['B', 'G', 'O', 'R'], ['G', 'O', 'R', 'Y'], ['R', 'O', 'B', 'P']] rfl ((calc_eq_fastP ['P', 'O', 'G', 'B'] ['R', 'O', 'B', 'P'] (by decide) (by decide)).trans (by decide)) (by decide) pe110 rfl nx110 (by decide) (by decide) (by decide)).trans ?_
  refine Eq.trans (step_lift ['R', 'O', 'B', 'P'] (?_ : loopRun (honest ['P', 'O', 'G', 'B']) 4 (some ['G', 'P', 'B', 'O']) E110 [['B', 'G', 'O', 'R'], ['G', 'O', 'R', 'Y'], ['R', 'O', 'B', 'P']] = (RunResult.solved ['P', 'O', 'G', 'B'] 5, [['G', 'P', 'B', 'O'], ['P', 'O', 'G', 'B']]))) rfl
  refine (loopRun_step ['P', 'O', 'G', 'B'] 4 3 ['G', 'P', 'B', 'O'] E110 [['B', 'G', 'O', 'R'], ['G', 'O', 'R', 'Y'], ['R', 'O', 'B', 'P']] 4 0 [['P', 'O', 'G', 'B']] ['P', 'O', 'G', 'B'] [['B', 'G', 'O', 'R'], ['G', 'O', 'R', 'Y'], ['R', 'O', 'B', 'P'], ['G', 'P', 'B', 'O']] rfl ((calc_eq_fastP ['P', 'O', 'G', 'B'] ['G', 'P', 'B', 'O'] (by decide) (by decide)).trans (by decide)) (by decide) pe326 rfl (findNextGuess_singleton ['P', 'O', 'G', 'B'] [['B', 'G', 'O', 'R'], ['G', 'O', 'R', 'Y'], ['R', 'O', 'B', 'P'], ['G', 'P', 'B', 'O']]) (by decide) (by decide) (by decide)).trans ?_
  refine Eq.trans (step_lift ['G', 'P', 'B', 'O'] (?_ : loopRun (honest ['P', 'O', 'G', 'B']) 3 (some ['P', 'O', 'G', 'B']) [['P', 'O', 'G', 'B']] [['B', 'G', 'O', 'R'], ['G', 'O', 'R', 'Y'], ['R', 'O', 'B', 'P'], ['G', 'P', 'B', 'O']] = (RunResult.solved ['P', 'O', 'G', 'B'] 5, [['P', 'O', 'G', 'B']]))) rfl
  exact loopRun_last ['P', 'O', 'G', 'B'] 3 2 [['P', 'O', 'G', 'B']] [['B', 'G', 'O', 'R'], ['G', 'O', 'R', 'Y'], ['R', 'O', 'B', 'P'], ['G', 'P', 'B', 'O']] rfl rfl (by decide)

lemma rs328 : loopRun (honest ['P', 'O', 'G', 'R']) 7 none S0 [] =
    (RunResult.solved ['P', 'O', 'G', 'R'] 5, [['B', 'G', 'O', 'R'], ['B', 'O', 'R', 'Y'], ['B', 'R', 'G', 'P'], ['O', 'G', 'R', 'P'], ['P', 'O', 'G', 'R']]) := by
  refine (loopRun_none' (honest ['P', 'O', 'G', 'R']) 7 S0 []).trans ?_
  refine (loopRun_step ['P', 'O', 'G', 'R'] 7 6 ['B', 'G', 'O', 'R'] S0 [] 2 1 E13 ['B', 'O', 'R', 'Y'] [['B', 'G', 'O', 'R']] rfl ((calc_eq_fastP ['P', 'O', 'G', 'R'] ['B', 'G', 'O', 'R'] (by decide) (by decide)).trans (by decide)) (by decide) pe13 rfl nx13 (by decide) (by decide) (by decide)).trans ?_
  refine Eq.trans (step_lift ['B', 'G', 'O', 'R'] (?_ : loopRun (honest ['P', 'O', 'G', 'R']) 6 (some ['B', 'O', 'R', 'Y']) E13 [['B', 'G', 'O', 'R']] = (RunResult.solved ['P', 'O', 'G', 'R'] 5, [['B', 'O', 'R', 'Y'], ['B', 'R', 'G', 'P'], ['O', 'G', 'R', 'P'], ['P', 'O', 'G', 'R']]))) rfl
  refine (loopRun_step ['P', 'O', 'G', 'R'] 6 5 ['B', 'O', 'R', 'Y'] E13 [['B', 'G', 'O', 'R']] 1 1 E26 ['B', 'R', 'G', 'P'] [['B', 'G', 'O', 'R'], ['B', 'O', 'R', 'Y']] rfl ((calc_eq_fastP ['P', 'O', 'G', 'R'] ['B', 'O', 'R', 'Y'] (by decide) (by decide)).trans (by decide)) (by decide) pe26 rfl nx26 (by decide) (by decide) (by decide)).trans ?_
  refine Eq.trans (step_lift ['B', 'O', 'R', 'Y'] (?_ : loopRun (honest ['P', 'O', 'G', 'R']) 5 (some ['B', 'R', 'G', 'P']) E26 [['B', 'G', 'O', 'R'], ['B', 'O', 'R', 'Y']] = (RunResult.solved ['P', 'O', 'G', 'R'] 5, [['B', 'R', 'G', 'P'], ['O', 'G', 'R', 'P'], ['P', 'O', 'G', 'R']]))) rfl
  refine (loopRun_step ['P', 'O', 'G', 'R'] 5 4 ['B', 'R', 'G', 'P'] E26 [['B', 'G', 'O', 'R'], ['B', 'O', 'R', 'Y']] 2 1 E139 ['O', 'G', 'R', 'P'] [['B', 'G', 'O', 'R'], ['B', 'O', 'R', 'Y'], ['B', 'R', 'G', 'P']] rfl ((calc_eq_fastP ['P', 'O', 'G', 'R'] ['B', 'R', 'G', 'P'] (by decide) (by decide)).trans (by decide)) (by decide) pe139 rfl nx139 (by decide) (by decide) (by decide)).trans ?_
  refine Eq.trans (step_lift ['B', 'R', 'G', 'P'] (?_ : loopRun (honest ['P', 'O', 'G', 'R']) 4 (some ['O', 'G', 'R', 'P']) E139 [['B', 'G', 'O', 'R'], ['B', 'O', 'R', 'Y'], ['B', 'R', 'G', 'P']] = (RunResult.solved ['P', 'O', 'G', 'R'] 5, [['O', 'G', 'R', 'P'], ['P', 'O', 'G', 'R']]))) rfl
  refine (loopRun_step ['P', 'O', 'G', 'R'] 4 3 ['O', 'G', 'R', 'P'] E139 [['B', 'G', 'O', 'R'], ['B', 'O', 'R', 'Y'], ['B', 'R', 'G', 'P']] 4 0 [['P', 'O', 'G', 'R']] ['P', 'O', 'G', 'R'] [['B', 'G', 'O', 'R'], ['B', 'O', 'R', 'Y'], ['B', 'R', 'G', 'P'], ['O', 'G', 'R', 'P']] rfl ((calc_eq_fastP ['P', 'O', 'G', 'R'] ['O', 'G', 'R', 'P'] (by decide) (by decide)).trans (by decide)) (by decide) pe327 rfl (findNextGuess_singleton ['P', 'O', 'G', 'R'] [['B', 'G', 'O', 'R'], ['B', 'O', 'R', 'Y'], ['B', 'R', 'G', 'P'], ['O', 'G', 'R', 'P']]) (by decide) (by decide) (by decide)).trans ?_
  refine Eq.trans (step_lift ['O', 'G', 'R', 'P'] (?_ : loopRun (honest ['P', 'O', 'G', 'R']) 3 (some ['P', 'O', 'G', 'R']) [['P', 'O', 'G', 'R']] [['B', 'G', 'O', 'R'], ['B', 'O', 'R', 'Y'], ['B', 'R', 'G', 'P'], ['O', 'G', 'R', 'P']] = (RunResult.solved ['P', 'O', 'G', 'R'] 5, [['P', 'O', 'G', 'R']]))) rfl
  exact loopRun_last ['P', 'O', 'G', 'R'] 3 2 [['P', 'O', 'G', 'R']] [['B', 'G', 'O', 'R'], ['B', 'O', 'R', 'Y'], ['B', 'R', 'G', 'P'], ['O', 'G', 'R', 'P']] rfl rfl (by decide)

lemma rs329 : loopRun (honest ['P', 'O', 'G', 'Y']) 7 none S0 [] =
    (RunResult.solved ['P', 'O', 'G', 'Y'] 5, [['B', 'G', 'O', 'R'], ['G', 'Y', 'R', 'P'], ['R', 'B', 'P', 'Y'], ['O', 'P', 'G', 'Y'], ['P', 'O', 'G', 'Y']]) := by
  refine (loopRun_none' (honest ['P', 'O', 'G', 'Y']) 7 S0 []).trans ?_
  refine (loopRun_step ['P', 'O', 'G', 'Y'] 7 6 ['B', 'G', 'O', 'R'] S0 [] 2 0 E72 ['G', 'Y', 'R', 'P'] [['B', 'G', 'O', 'R']] rfl ((calc_eq_fastP ['P', 'O', 'G', 'Y'] ['B', 'G', 'O', 'R'] (by decide) (by decide)).trans (by decide)) (by decide) pe72 rfl nx72 (by decide) (by decide) (by decide)).trans ?_
  refine Eq.trans (step_lift ['B', 'G', 'O', 'R'] (?_ : loopRun (honest ['P', 'O', 'G', 'Y']) 6 (some ['G', 'Y', 'R', 'P']) E72 [['B', 'G', 'O', 'R']] = (RunResult.solved ['P', 'O', 'G', 'Y'] 5, [['G', 'Y', 'R', 'P'], ['R', 'B', 'P', 'Y'], ['O', 'P', 'G', 'Y'], ['P', 'O', 'G', 'Y']]))) rfl
  refine (loopRun_step ['P', 'O', 'G', 'Y'] 6 5 ['G', 'Y', 'R', 'P'] E72 [['B', 'G', 'O', 'R']] 3 0 E158 ['R', 'B', 'P', 'Y'] [['B', 'G', 'O', 'R'], ['G', 'Y', 'R', 'P']] rfl ((calc_eq_fastP ['P', 'O', 'G', 'Y'] ['G', 'Y', 'R', 'P'] (by decide) (by decide)).trans (by decide)) (by decide) pe158 rfl nx158 (by decide) (by decide) (by decide)).trans ?_
  refine Eq.trans (step_lift ['G', 'Y', 'R', 'P'] (?_ : loopRun (honest ['P', 'O', 'G', 'Y']) 5 (some ['R', 'B', 'P', 'Y']) E158 [['B', 'G', 'O', 'R'], ['G', 'Y', 'R', 'P']] = (RunResult.solved ['P', 'O', 'G', 'Y'] 5, [['R', 'B', 'P', 'Y'], ['O', 'P', 'G', 'Y'], ['P', 'O', 'G', 'Y']]))) rfl
  refine (loopRun_step ['P', 'O', 'G', 'Y'] 5 4 ['R', 'B', 'P', 'Y'] E158 [['B', 'G', 'O', 'R'], ['G', 'Y', 'R', 'P']] 1 1 E176 ['O', 'P', 'G', 'Y'] [['B', 'G', 'O', 'R'], ['G', 'Y', 'R', 'P'], ['R', 'B', 'P', 'Y']] rfl ((calc_eq_fastP ['P', 'O', 'G', 'Y'] ['R', 'B', 'P', 'Y'] (by decide) (by decide)).trans (by decide)) (by decide) pe176 rfl nx176 (by decide) (by decide) (by decide)).trans ?_
  refine Eq.trans (step_lift ['R', 'B', 'P', 'Y'] (?_ : loopRun (honest ['P', 'O', 'G', 'Y']) 4 (some ['O', 'P', 'G', 'Y']) E176 [['B', 'G', 'O', 'R'], ['G', 'Y', 'R', 'P'], ['R', 'B', 'P', 'Y']] = (RunResult.solved ['P', 'O', 'G', 'Y'] 5, [['O', 'P', 'G', 'Y'], ['P', 'O', 'G', 'Y']]))) rfl
  refine (loopRun_step ['P', 'O', 'G', 'Y'] 4 3 ['O', 'P', 'G', 'Y'] E176 [['B', 'G', 'O', 'R'], ['G', 'Y', 'R', 'P'], ['R', 'B', 'P', 'Y']] 2 2 [['P', 'O', 'G', 'Y']] ['P', 'O', 'G', 'Y'] [['B', 'G', 'O', 'R'], ['G', 'Y', 'R', 'P'], ['R', 'B', 'P', 'Y'], ['O', 'P', 'G', 'Y']] rfl ((calc_eq_fastP ['P', 'O', 'G', 'Y'] ['O', 'P', 'G', 'Y'] (by decide) (by decide)).trans (by decide)) (by decide) pe328 rfl (findNextGuess_singleton ['P', 'O', 'G', 'Y'] [['B', 'G', 'O', 'R'], ['G', 'Y', 'R', 'P'], ['R', 'B', 'P', 'Y'], ['O', 'P', 'G', 'Y']]) (by decide) (by decide) (by decide)).trans ?_
  refine Eq.trans (step_lift ['O', 'P', 'G', 'Y'] (?_ : loopRun (honest ['P', 'O', 'G', 'Y']) 3 (some ['P', 'O', 'G', 'Y']) [['P', 'O', 'G', 'Y']] [['B', 'G', 'O', 'R'], ['G', 'Y', 'R', 'P'], ['R', 'B', 'P', 'Y'], ['O', 'P', 'G', 'Y']] = (RunResult.solved ['P', 'O', 'G', 'Y'] 5, [['P', 'O', 'G', 'Y']]))) rfl
  exact loopRun_last ['P', 'O', 'G', 'Y'] 3 2 [['P', 'O', 'G', 'Y']] [['B', 'G', 'O', 'R'], ['G', 'Y', 'R', 'P'], ['R', 'B', 'P', 'Y'], ['O', 'P', 'G', 'Y']] rfl rfl (by decide)

lemma rs330 : loopRun (honest ['P', 'O', 'R', 'B']) 7 none S0 [] =
    (RunResult.solved ['P', 'O', 'R', 'B'] 5, [['B', 'G', 'O', 'R'], ['G', 'O', 'R', 'Y'], ['G', 'B', 'R', 'P'], ['G', 'O', 'P', 'B'], ['P', 'O', 'R', 'B']]) := by
  refine (loopRun_none' (honest ['P', 'O', 'R', 'B']) 7 S0 []).trans ?_
  refine (loopRun_step ['P', 'O', 'R', 'B'] 7 6 ['B', 'G', 'O', 'R'] S0 [] 3 0 E65 ['G', 'O', 'R', 'Y'] [['B', 'G', 'O', 'R']] rfl ((calc_eq_fastP ['P', 'O', 'R', 'B'] ['B', 'G', 'O', 'R'] (by decide) (by decide)).trans (by decide)) (by decide) pe65 rfl nx65 (by decide) (by decide) (by decide)).trans ?_
  refine Eq.trans (step_lift ['B', 'G', 'O', 'R'] (?_ : loopRun (honest ['P', 'O', 'R', 'B']) 6 (some ['G', 'O', 'R', 'Y']) E65 [['B', 'G', 'O', 'R']] = (RunResult.solved ['P', 'O', 'R', 'B'] 5, [['G', 'O', 'R', 'Y'], ['G', 'B', 'R', 'P'], ['G', 'O', 'P', 'B'], ['P', 'O', 'R', 'B']]))) rfl
  refine (loopRun_step ['P', 'O', 'R', 'B'] 6 5 ['G', 'O', 'R', 'Y'] E65 [['B', 'G', 'O', 'R']] 0 2 E67 ['G', 'B', 'R', 'P'] [['B', 'G', 'O', 'R'], ['G', 'O', 'R', 'Y']] rfl ((calc_eq_fastP ['P', 'O', 'R', 'B'] ['G', 'O', 'R', 'Y'] (by decide) (by decide)).trans (by decide)) (by decide) pe67 rfl nx67 (by decide) (by decide) (by decide)).trans ?_
  refine Eq.trans (step_lift ['G', 'O', 'R', 'Y'] (?_ : loopRun (honest ['P', 'O', 'R', 'B']) 5 (some ['G', 'B', 'R', 'P']) E67 [['B', 'G', 'O', 'R'], ['G', 'O', 'R', 'Y']] = (RunResult.solved ['P', 'O', 'R', 'B'] 5, [['G', 'B', 'R', 'P'], ['G', 'O', 'P', 'B'], ['P', 'O', 'R', 'B']]))) rfl
  refine (loopRun_step ['P', 'O', 'R', 'B'] 5 4 ['G', 'B', 'R', 'P'] E67 [['B', 'G', 'O', 'R'], ['G', 'O', 'R', 'Y']] 2 1 E86 ['G', 'O', 'P', 'B'] [['B', 'G', 'O', 'R'], ['G', 'O', 'R', 'Y'], ['G', 'B', 'R', 'P']] rfl ((calc_eq_fastP ['P', 'O', 'R', 'B'] ['G', 'B', 'R', 'P'] (by decide) (by decide)).trans (by decide)) (by decide) pe86 rfl nx86 (by decide) (by decide) (by decide)).trans ?_
  refine Eq.trans (step_lift ['G', 'B', 'R', 'P'] (?_ : loopRun (honest ['P', 'O', 'R', 'B']) 4 (some ['G', 'O', 'P', 'B']) E86 [['B', 'G', 'O', 'R'], ['G', 'O', 'R', 'Y'], ['G', 'B', 'R', 'P']] = (RunResult.solved ['P', 'O', 'R', 'B'] 5, [['G', 'O', 'P', 'B'], ['P', 'O', 'R', 'B']]))) rfl
  refine (loopRun_step ['P', 'O', 'R', 'B'] 4 3 ['G', 'O', 'P', 'B'] E86 [['B', 'G', 'O', 'R'], ['G', 'O', 'R', 'Y'], ['G', 'B', 'R', 'P']] 1 2 [['P', 'O', 'R', 'B']] ['P', 'O', 'R', 'B'] [['B', 'G', 'O', 'R'], ['G', 'O', 'R', 'Y'], ['G', 'B', 'R', 'P'], ['G', 'O', 'P', 'B']] rfl ((calc_eq_fastP ['P', 'O', 'R', 'B'] ['G', 'O', 'P', 'B'] (by decide) (by decide)).trans (by decide)) (by decide) pe329 rfl (findNextGuess_singleton ['P', 'O', 'R', 'B'] [['B', 'G', 'O', 'R'], ['G', 'O', 'R', 'Y'], ['G', 'B', 'R', 'P'], ['G', 'O', 'P', 'B']]) (by decide) (by decide) (by decide)).trans ?_
  refine Eq.trans (step_lift ['G', 'O', 'P', 'B'] (?_ : loopRun (honest ['P', 'O', 'R', 'B']) 3 (some ['P', 'O', 'R', 'B']) [['P', 'O', 'R', 'B']] [['B', 'G', 'O', 'R'], ['G', 'O', 'R', 'Y'], ['G', 'B', 'R', 'P'], ['G', 'O', 'P', 'B']] = (RunResult.solved ['P', 'O', 'R', 'B'] 5, [['P', 'O', 'R', 'B']]))) rfl
  exact loopRun_last ['P', 'O', 'R', 'B'] 3 2 [['P', 'O', 'R', 'B']] [['B', 'G', 'O', 'R'], ['G', 'O', 'R', 'Y'], ['G', 'B', 'R', 'P'], ['G', 'O', 'P', 'B']] rfl rfl (by decide)

lemma rs331 : loopRun (honest ['P', 'O', 'R', 'G']) 7 none S0 [] =
    (RunResult.solved ['P', 'O', 'R', 'G'] 5, [['B', 'G', 'O', 'R'], ['G', 'O', 'R', 'Y'], ['G', 'O', 'Y', 'B'], ['G', 'P', 'R', 'O'], ['P', 'O', 'R', 'G']]) := by
  refine (loopRun_none' (honest ['P', 'O', 'R', 'G']) 7 S0 []).trans ?_
  refine (loopRun_step ['P', 'O', 'R', 'G'] 7 6 ['B', 'G', 'O', 'R'] S0 [] 3 0 E65 ['G', 'O', 'R', 'Y'] [['B', 'G', 'O', 'R']] rfl ((calc_eq_fastP ['P', 'O', 'R', 'G'] ['B', 'G', 'O', 'R'] (by decide) (by decide)).trans (by decide)) (by decide) pe65 rfl nx65 (by decide) (by decide) (by decide)).trans ?_
  refine Eq.trans (step_lift ['B', 'G', 'O', 'R'] (?_ : loopRun (honest ['P', 'O', 'R', 'G']) 6 (some ['G', 'O', 'R', 'Y']) E65 [['B', 'G', 'O', 'R']] = (RunResult.solved ['P', 'O', 'R', 'G'] 5, [['G', 'O', 'R', 'Y'], ['G', 'O', 'Y', 'B'], ['G', 'P', 'R', 'O'], ['P', 'O', 'R', 'G']]))) rfl
  refine (loopRun_step ['P', 'O', 'R', 'G'] 6 5 ['G', 'O', 'R', 'Y'] E65 [['B', 'G', 'O', 'R']] 1 2 E84 ['G', 'O', 'Y', 'B'] [['B', 'G', 'O', 'R'], ['G', 'O', 'R', 'Y']] rfl ((calc_eq_fastP ['P', 'O', 'R', 'G'] ['G', 'O', 'R', 'Y'] (by decide) (by decide)).trans (by decide)) (by decide) pe84 rfl nx84 (by decide) (by decide) (by decide)).trans ?_
  refine Eq.trans (step_lift ['G', 'O', 'R', 'Y'] (?_ : loopRun (honest ['P', 'O', 'R', 'G']) 5 (some ['G', 'O', 'Y', 'B']) E84 [['B', 'G', 'O', 'R'], ['G', 'O', 'R', 'Y']] = (RunResult.solved ['P', 'O', 'R', 'G'] 5, [['G', 'O', 'Y', 'B'], ['G', 'P', 'R', 'O'], ['P', 'O', 'R', 'G']]))) rfl
  refine (loopRun_step ['P', 'O', 'R', 'G'] 5 4 ['G', 'O', 'Y', 'B'] E84 [['B', 'G', 'O', 'R'], ['G', 'O', 'R', 'Y']] 1 1 E116 ['G', 'P', 'R', 'O'] [['B', 'G', 'O', 'R'], ['G', 'O', 'R', 'Y'], ['G', 'O', 'Y', 'B']] rfl ((calc_eq_fastP ['P', 'O', 'R', 'G'] ['G', 'O', 'Y', 'B'] (by decide) (by decide)).trans (by decide)) (by decide) pe116 rfl nx116 (by decide) (by decide) (by decide)).trans ?_
  refine Eq.trans (step_lift ['G', 'O', 'Y', 'B'] (?_ : loopRun (honest ['P', 'O', 'R', 'G']) 4 (some ['G', 'P', 'R', 'O']) E116 [['B', 'G', 'O', 'R'], ['G', 'O', 'R', 'Y'], ['G', 'O', 'Y', 'B']] = (RunResult.solved ['P', 'O', 'R', 'G'] 5, [['G', 'P', 'R', 'O'], ['P', 'O', 'R', 'G']]))) rfl
  refine (loopRun_step ['P', 'O', 'R', 'G'] 4 3 ['G', 'P', 'R', 'O'] E116 [['B', 'G', 'O', 'R'], ['G', 'O', 'R', 'Y'], ['G', 'O', 'Y', 'B']] 3 1 [['P', 'O', 'R', 'G']] ['P', 'O', 'R', 'G'] [['B', 'G', 'O', 'R'], ['G', 'O', 'R', 'Y'], ['G', 'O', 'Y', 'B'], ['G', 'P', 'R', 'O']] rfl ((calc_eq_fastP ['P', 'O', 'R', 'G'] ['G', 'P', 'R', 'O'] (by decide) (by decide)).trans (by decide)) (by decide) pe330 rfl (findNextGuess_singleton ['P', 'O', 'R', 'G'] [['B', 'G', 'O', 'R'], ['G', 'O', 'R', 'Y'], ['G', 'O', 'Y', 'B'], ['G', 'P', 'R', 'O']]) (by decide) (by decide) (by decide)).trans ?_
  refine Eq.trans (step_lift ['G', 'P', 'R', 'O'] (?_ : loopRun (honest ['P', 'O', 'R', 'G']) 3 (some ['P', 'O', 'R', 'G']) [['P', 'O', 'R', 'G']] [['B', 'G', 'O', 'R'], ['G', 'O', 'R', 'Y'], ['G', 'O', 'Y', 'B'], ['G', 'P', 'R', 'O']] = (RunResult.solved ['P', 'O', 'R', 'G'] 5, [['P', 'O', 'R', 'G']]))) rfl
  exact loopRun_last ['P', 'O', 'R', 'G'] 3 2 [['P', 'O', 'R', 'G']] [['B', 'G', 'O', 'R'], ['G', 'O', 'R', 'Y'], ['G', 'O', 'Y', 'B'], ['G', 'P', 'R', 'O']] rfl rfl (by decide)

lemma rs332 : loopRun (honest ['P', 'O', 'R', 'Y']) 7 none S0 [] =
    (RunResult.solved ['P', 'O', 'R', 'Y'] 5, [['B', 'G', 'O', 'R'], ['G', 'Y', 'R', 'P'], ['G', 'B', 'P', 'Y'], ['O', 'P', 'R', 'Y'], ['P', 'O', 'R', 'Y']]) := by
  refine (loopRun_none' (honest ['P', 'O', 'R', 'Y']) 7 S0 []).trans ?_
  refine (loopRun_step ['P', 'O', 'R', 'Y'] 7 6 ['B', 'G', 'O', 'R'] S0 [] 2 0 E72 ['G', 'Y', 'R', 'P'] [['B', 'G', 'O', 'R']] rfl ((calc_eq_fastP ['P', 'O', 'R', 'Y'] ['B', 'G', 'O', 'R'] (by decide) (by decide)).trans (by decide)) (by decide) pe72 rfl nx72 (by decide) (by decide) (by decide)).trans ?_
  refine Eq.trans (step_lift ['B', 'G', 'O', 'R'] (?_ : loopRun (honest ['P', 'O', 'R', 'Y']) 6 (some ['G', 'Y', 'R', 'P']) E72 [['B', 'G', 'O', 'R']] = (RunResult.solved ['P', 'O', 'R', 'Y'] 5, [['G', 'Y', 'R', 'P'], ['G', 'B', 'P', 'Y'], ['O', 'P', 'R', 'Y'], ['P', 'O', 'R', 'Y']]))) rfl
  refine (loopRun_step ['P', 'O', 'R', 'Y'] 6 5 ['G', 'Y', 'R', 'P'] E72 [['B', 'G', 'O', 'R']] 2 1 E78 ['G', 'B', 'P', 'Y'] [['B', 'G', 'O', 'R'], ['G', 'Y', 'R', 'P']] rfl ((calc_eq_fastP ['P', 'O', 'R', 'Y'] ['G', 'Y', 'R', 'P'] (by decide) (by decide)).trans (by decide)) (by decide) pe78 rfl nx78 (by decide) (by decide) (by decide)).trans ?_
  refine Eq.trans (step_lift ['G', 'Y', 'R', 'P'] (?_ : loopRun (honest ['P', 'O', 'R', 'Y']) 5 (some ['G', 'B', 'P', 'Y']) E78 [['B', 'G', 'O', 'R'], ['G', 'Y', 'R', 'P']] = (RunResult.solved ['P', 'O', 'R', 'Y'] 5, [['G', 'B', 'P', 'Y'], ['O', 'P', 'R', 'Y'], ['P', 'O', 'R', 'Y']]))) rfl
  refine (loopRun_step ['P', 'O', 'R', 'Y'] 5 4 ['G', 'B', 'P', 'Y'] E78 [['B', 'G', 'O', 'R'], ['G', 'Y', 'R', 'P']] 1 1 E179 ['O', 'P', 'R', 'Y'] [['B', 'G', 'O', 'R'], ['G', 'Y', 'R', 'P'], ['G', 'B', 'P', 'Y']] rfl ((calc_eq_fastP ['P', 'O', 'R', 'Y'] ['G', 'B', 'P', 'Y'] (by decide) (by decide)).trans (by decide)) (by decide) pe179 rfl nx179 (by decide) (by decide) (by decide)).trans ?_
  refine Eq.trans (step_lift ['G', 'B', 'P', 'Y'] (?_ : loopRun (honest ['P', 'O', 'R', 'Y']) 4 (some ['O', 'P', 'R', 'Y']) E179 [['B', 'G', 'O', 'R'], ['G', 'Y', 'R', 'P'], ['G', 'B', 'P', 'Y']] = (RunResult.solved ['P', 'O', 'R', 'Y'] 5, [['O', 'P', 'R', 'Y'], ['P', 'O', 'R', 'Y']]))) rfl
  refine (loopRun_step ['P', 'O', 'R', 'Y'] 4 3 ['O', 'P', 'R', 'Y'] E179 [['B', 'G', 'O', 'R'], ['G', 'Y', 'R', 'P'], ['G', 'B', 'P', 'Y']] 2 2 [['P', 'O', 'R', 'Y']] ['P', 'O', 'R', 'Y'] [['B', 'G', 'O', 'R'], ['G', 'Y', 'R', 'P'], ['G', 'B', 'P', 'Y'], ['O', 'P', 'R', 'Y']] rfl ((calc_eq_fastP ['P', 'O', 'R', 'Y'] ['O', 'P', 'R', 'Y'] (by decide) (by decide)).trans (by decide)) (by decide) pe331 rfl (findNextGuess_singleton ['P', 'O', 'R', 'Y'] [['B', 'G', 'O', 'R'], ['G', 'Y', 'R', 'P'], ['G', 'B', 'P', 'Y'], ['O', 'P', 'R', 'Y']]) (by decide) (by decide) (by decide)).trans ?_
  refine Eq.trans (step_lift ['O', 'P', 'R', 'Y'] (?_ : loopRun (honest ['P', 'O', 'R', 'Y']) 3 (some ['P', 'O', 'R', 'Y']) [['P', 'O', 'R', 'Y']] [['B', 'G', 'O', 'R'], ['G', 'Y', 'R', 'P'], ['G', 'B', 'P', 'Y'], ['O', 'P', 'R', 'Y']] = (RunResult.solved ['P', 'O', 'R', 'Y'] 5, [['P', 'O', 'R', 'Y']]))) rfl
  exact loopRun_last ['P', 'O', 'R', 'Y'] 3 2 [['P', 'O', 'R', 'Y']] [['B', 'G', 'O', 'R'], ['G', 'Y', 'R', 'P'], ['G', 'B', 'P', 'Y'], ['O', 'P', 'R', 'Y']] rfl rfl (by decide)

lemma rs333 : loopRun (honest ['P', 'O', 'Y', 'B']) 7 none S0 [] =
    (RunResult.solved ['P', 'O', 'Y', 'B'] 5, [['B', 'G', 'O', 'R'], ['G', 'Y', 'R', 'P'], ['O', 'B', 'P', 'Y'], ['Y', 'P', 'B', 'O'], ['P', 'O', 'Y', 'B']]) := by
  refine (loopRun_none' (honest ['P', 'O', 'Y', 'B']) 7 S0 []).trans ?_
  refine (loopRun_step ['P', 'O', 'Y', 'B'] 7 6 ['B', 'G', 'O', 'R'] S0 [] 2 0 E72 ['G', 'Y', 'R', 'P'] [['B', 'G', 'O', 'R']] rfl ((calc_eq_fastP ['P', 'O', 'Y', 'B'] ['B', 'G', 'O', 'R'] (by decide) (by decide)).trans (by decide)) (by decide) pe72 rfl nx72 (by decide) (by decide) (by decide)).trans ?_
  refine Eq.trans (step_lift ['B', 'G', 'O', 'R'] (?_ : loopRun (honest ['P', 'O', 'Y', 'B']) 6 (some ['G', 'Y', 'R', 'P']) E72 [['B', 'G', 'O', 'R']] = (RunResult.solved ['P', 'O', 'Y', 'B'] 5, [['G', 'Y', 'R', 'P'], ['O', 'B', 'P', 'Y'], ['Y', 'P', 'B', 'O'], ['P', 'O', 'Y', 'B']]))) rfl
  refine (loopRun_step ['P', 'O', 'Y', 'B'] 6 5 ['G', 'Y', 'R', 'P'] E72 [['B', 'G', 'O', 'R']] 2 0 E133 ['O', 'B', 'P', 'Y'] [['B', 'G', 'O', 'R'], ['G', 'Y', 'R', 'P']] rfl ((calc_eq_fastP ['P', 'O', 'Y', 'B'] ['G', 'Y', 'R', 'P'] (by decide) (by decide)).trans (by decide)) (by decide) pe133 rfl nx133 (by decide) (by decide) (by decide)).trans ?_
  refine Eq.trans (step_lift ['G', 'Y', 'R', 'P'] (?_ : loopRun (honest ['P', 'O', 'Y', 'B']) 5 (some ['O', 'B', 'P', 'Y']) E133 [['B', 'G', 'O', 'R'], ['G', 'Y', 'R', 'P']] = (RunResult.solved ['P', 'O', 'Y', 'B'] 5, [['O', 'B', 'P', 'Y'], ['Y', 'P', 'B', 'O'], ['P', 'O', 'Y', 'B']]))) rfl
  refine (loopRun_step ['P', 'O', 'Y', 'B'] 5 4 ['O', 'B', 'P', 'Y'] E133 [['B', 'G', 'O', 'R'], ['G', 'Y', 'R', 'P']] 4 0 E288 ['Y', 'P', 'B', 'O'] [['B', 'G', 'O', 'R'], ['G', 'Y', 'R', 'P'], ['O', 'B', 'P', 'Y']] rfl ((calc_eq_fastP ['P', 'O', 'Y', 'B'] ['O', 'B', 'P', 'Y'] (by decide) (by decide)).trans (by decide)) (by decide) pe288 rfl nx288 (by decide) (by decide) (by decide)).trans ?_
  refine Eq.trans (step_lift ['O', 'B', 'P', 'Y'] (?_ : loopRun (honest ['P', 'O', 'Y', 'B']) 4 (some ['Y', 'P', 'B', 'O']) E288 [['B', 'G', 'O', 'R'], ['G', 'Y', 'R', 'P'], ['O', 'B', 'P', 'Y']] = (RunResult.solved ['P', 'O', 'Y', 'B'] 5, [['Y', 'P', 'B', 'O'], ['P', 'O', 'Y', 'B']]))) rfl
  refine (loopRun_step ['P', 'O', 'Y', 'B'] 4 3 ['Y', 'P', 'B', 'O'] E288 [['B', 'G', 'O', 'R'], ['G', 'Y', 'R', 'P'], ['O', 'B', 'P', 'Y']] 4 0 [['P', 'O', 'Y', 'B']] ['P', 'O', 'Y', 'B'] [['B', 'G', 'O', 'R'], ['G', 'Y', 'R', 'P'], ['O', 'B', 'P', 'Y'], ['Y', 'P', 'B', 'O']] rfl ((calc_eq_fastP ['P', 'O', 'Y', 'B'] ['Y', 'P', 'B', 'O'] (by decide) (by decide)).trans (by decide)) (by decide) pe332 rfl (findNextGuess_singleton ['P', 'O', 'Y', 'B'] [['B', 'G', 'O', 'R'], ['G', 'Y', 'R', 'P'], ['O', 'B', 'P', 'Y'], ['Y', 'P', 'B', 'O']]) (by decide) (by decide) (by decide)).trans ?_
  refine Eq.trans (step_lift ['Y', 'P', 'B', 'O'] (?_ : loopRun (honest ['P', 'O', 'Y', 'B']) 3 (some ['P', 'O', 'Y', 'B']) [['P', 'O', 'Y', 'B']] [['B', 'G', 'O', 'R'], ['G', 'Y', 'R', 'P'], ['O', 'B', 'P', 'Y'], ['Y', 'P', 'B', 'O']] = (RunResult.solved ['P', 'O', 'Y', 'B'] 5, [['P', 'O', 'Y', 'B']]))) rfl
  exact loopRun_last ['P', 'O', 'Y', 'B'] 3 2 [['P', 'O', 'Y', 'B']] [['B', 'G', 'O', 'R'], ['G', 'Y', 'R', 'P'], ['O', 'B', 'P', 'Y'], ['Y', 'P', 'B', 'O']] rfl rfl (by decide)

lemma rs334 : loopRun (honest ['P', 'O', 'Y', 'G']) 7 none S0 [] =
    (RunResult.solved ['P', 'O', 'Y', 'G'] 5, [['B', 'G', 'O', 'R'], ['G', 'Y', 'R', 'P'], ['R', 'B', 'P', 'Y'], ['O', 'P', 'Y', 'G'], ['P', 'O', 'Y', 'G']]) := by
  refine (loopRun_none' (honest ['P', 'O', 'Y', 'G']) 7 S0 []).trans ?_
  refine (loopRun_step ['P', 'O', 'Y', 'G'] 7 6 ['B', 'G', 'O', 'R'] S0 [] 2 0 E72 ['G', 'Y', 'R', 'P'] [['B', 'G', 'O', 'R']] rfl ((calc_eq_fastP ['P', 'O', 'Y', 'G'] ['B', 'G', 'O', 'R'] (by decide) (by decide)).trans (by decide)) (by decide) pe72 rfl nx72 (by decide) (by decide) (by decide)).trans ?_
  refine Eq.trans (step_lift ['B', 'G', 'O', 'R'] (?_ : loopRun (honest ['P', 'O', 'Y', 'G']) 6 (some ['G', 'Y', 'R', 'P']) E72 [['B', 'G', 'O', 'R']] = (RunResult.solved ['P', 'O', 'Y', 'G'] 5, [['G', 'Y', 'R', 'P'], ['R', 'B', 'P', 'Y'], ['O', 'P', 'Y', 'G'], ['P', 'O', 'Y', 'G']]))) rfl
  refine (loopRun_step ['P', 'O', 'Y', 'G'] 6 5 ['G', 'Y', 'R', 'P'] E72 [['B', 'G', 'O', 'R']] 3 0 E158 ['R', 'B', 'P', 'Y'] [['B', 'G', 'O', 'R'], ['G', 'Y', 'R', 'P']] rfl ((calc_eq_fastP ['P', 'O', 'Y', 'G'] ['G', 'Y', 'R', 'P'] (by decide) (by decide)).trans (by decide)) (by decide) pe158 rfl nx158 (by decide) (by decide) (by decide)).trans ?_
  refine Eq.trans (step_lift ['G', 'Y', 'R', 'P'] (?_ : loopRun (honest ['P', 'O', 'Y', 'G']) 5 (some ['R', 'B', 'P', 'Y']) E158 [['B', 'G', 'O', 'R'], ['G', 'Y', 'R', 'P']] = (RunResult.solved ['P', 'O', 'Y', 'G'] 5, [['R', 'B', 'P', 'Y'], ['O', 'P', 'Y', 'G'], ['P', 'O', 'Y', 'G']]))) rfl
  refine (loopRun_step ['P', 'O', 'Y', 'G'] 5 4 ['R', 'B', 'P', 'Y'] E158 [['B', 'G', 'O', 'R'], ['G', 'Y', 'R', 'P']] 2 0 E181 ['O', 'P', 'Y', 'G'] [['B', 'G', 'O', 'R'], ['G', 'Y', 'R', 'P'], ['R', 'B', 'P', 'Y']] rfl ((calc_eq_fastP ['P', 'O', 'Y', 'G'] ['R', 'B', 'P', 'Y'] (by decide) (by decide)).trans (by decide)) (by decide) pe181 rfl nx181 (by decide) (by decide) (by decide)).trans ?_
  refine Eq.trans (step_lift ['R', 'B', 'P', 'Y'] (?_ : loopRun (honest ['P', 'O', 'Y', 'G']) 4 (some ['O', 'P', 'Y', 'G']) E181 [['B', 'G', 'O', 'R'], ['G', 'Y', 'R', 'P'], ['R', 'B', 'P', 'Y']] = (RunResult.solved ['P', 'O', 'Y', 'G'] 5, [['O', 'P', 'Y', 'G'], ['P', 'O', 'Y', 'G']]))) rfl
  refine (loopRun_step ['P', 'O', 'Y', 'G'] 4 3 ['O', 'P', 'Y', 'G'] E181 [['B', 'G', 'O', 'R'], ['G', 'Y', 'R', 'P'], ['R', 'B', 'P', 'Y']] 2 2 [['P', 'O', 'Y', 'G']] ['P', 'O', 'Y', 'G'] [['B', 'G', 'O', 'R'], ['G', 'Y', 'R', 'P'], ['R', 'B', 'P', 'Y'], ['O', 'P', 'Y', 'G']] rfl ((calc_eq_fastP ['P', 'O', 'Y', 'G'] ['O', 'P', 'Y', 'G'] (by decide) (by decide)).trans (by decide)) (by decide) pe333 rfl (findNextGuess_singleton ['P', 'O', 'Y', 'G'] [['B', 'G', 'O', 'R'], ['G', 'Y', 'R', 'P'], ['R', 'B', 'P', 'Y'], ['O', 'P', 'Y', 'G']]) (by decide) (by decide) (by decide)).trans ?_
  refine Eq.trans (step_lift ['O', 'P', 'Y', 'G'] (?_ : loopRun (honest ['P', 'O', 'Y', 'G']) 3 (some ['P', 'O', 'Y', 'G']) [['P', 'O', 'Y', 'G']] [['B', 'G', 'O', 'R'], ['G', 'Y', 'R', 'P'], ['R', 'B', 'P', 'Y'], ['O', 'P', 'Y', 'G']] = (RunResult.solved ['P', 'O', 'Y', 'G'] 5, [['P', 'O', 'Y', 'G']]))) rfl
  exact loopRun_last ['P', 'O', 'Y', 'G'] 3 2 [['P', 'O', 'Y', 'G']] [['B', 'G', 'O', 'R'], ['G', 'Y', 'R', 'P'], ['R', 'B', 'P', 'Y'], ['O', 'P', 'Y', 'G']] rfl rfl (by decide)

lemma rs335 : loopRun (honest ['P', 'O', 'Y', 'R']) 7 none S0 [] =
    (RunResult.solved ['P', 'O', 'Y', 'R'] 4, [['B', 'G', 'O', 'R'], ['B', 'O', 'Y', 'P'], ['B', 'Y', 'G', 'P'], ['P', 'O', 'Y', 'R']]) := by
  refine (loopRun_none' (honest ['P', 'O', 'Y', 'R']) 7 S0 []).trans ?_
  refine (loopRun_step ['P', 'O', 'Y', 'R'] 7 6 ['B', 'G', 'O', 'R'] S0 [] 1 1 E20 ['B', 'O', 'Y', 'P'] [['B', 'G', 'O', 'R']] rfl ((calc_eq_fastP ['P', 'O', 'Y', 'R'] ['B', 'G', 'O', 'R'] (by decide) (by decide)).trans (by decide)) (by decide) pe20 rfl nx20 (by decide) (by decide) (by decide)).trans ?_
  refine Eq.trans (step_lift ['B', 'G', 'O', 'R'] (?_ : loopRun (honest ['P', 'O', 'Y', 'R']) 6 (some ['B', 'O', 'Y', 'P']) E20 [['B', 'G', 'O', 'R']] = (RunResult.solved ['P', 'O', 'Y', 'R'] 4, [['B', 'O', 'Y', 'P'], ['B', 'Y', 'G', 'P'], ['P', 'O', 'Y', 'R']]))) rfl
  refine (loopRun_step ['P', 'O', 'Y', 'R'] 6 5 ['B', 'O', 'Y', 'P'] E20 [['B', 'G', 'O', 'R']] 1 2 E39 ['B', 'Y', 'G', 'P'] [['B', 'G', 'O', 'R'], ['B', 'O', 'Y', 'P']] rfl ((calc_eq_fastP ['P', 'O', 'Y', 'R'] ['B', 'O', 'Y', 'P'] (by decide) (by decide)).trans (by decide)) (by decide) pe39 rfl nx39 (by decide) (by decide) (by decide)).trans ?_
  refine Eq.trans (step_lift ['B', 'O', 'Y', 'P'] (?_ : loopRun (honest ['P', 'O', 'Y', 'R']) 5 (some ['B', 'Y', 'G', 'P']) E39 [['B', 'G', 'O', 'R'], ['B', 'O', 'Y', 'P']] = (RunResult.solved ['P', 'O', 'Y', 'R'] 4, [['B', 'Y', 'G', 'P'], ['P', 'O', 'Y', 'R']]))) rfl
  refine (loopRun_step ['P', 'O', 'Y', 'R'] 5 4 ['B', 'Y', 'G', 'P'] E39 [['B', 'G', 'O', 'R'], ['B', 'O', 'Y', 'P']] 2 0 [['P', 'O', 'Y', 'R']] ['P', 'O', 'Y', 'R'] [['B', 'G', 'O', 'R'], ['B', 'O', 'Y', 'P'], ['B', 'Y', 'G', 'P']] rfl ((calc_eq_fastP ['P', 'O', 'Y', 'R'] ['B', 'Y', 'G', 'P'] (by decide) (by decide)).trans (by decide)) (by decide) pe334 rfl (findNextGuess_singleton ['P', 'O', 'Y', 'R'] [['B', 'G', 'O', 'R'], ['B', 'O', 'Y', 'P'], ['B', 'Y', 'G', 'P']]) (by decide) (by decide) (by decide)).trans ?_
  refine Eq.trans (step_lift ['B', 'Y', 'G', 'P'] (?_ : loopRun (honest ['P', 'O', 'Y', 'R']) 4 (some ['P', 'O', 'Y', 'R']) [['P', 'O', 'Y', 'R']] [['B', 'G', 'O', 'R'], ['B', 'O', 'Y', 'P'], ['B', 'Y', 'G', 'P']] = (RunResult.solved ['P', 'O', 'Y', 'R'] 4, [['P', 'O', 'Y', 'R']]))) rfl
  exact loopRun_last ['P', 'O', 'Y', 'R'] 4 3 [['P', 'O', 'Y', 'R']] [['B', 'G', 'O', 'R'], ['B', 'O', 'Y', 'P'], ['B', 'Y', 'G', 'P']] rfl rfl (by decide)

lemma rs336 : loopRun (honest ['P', 'R', 'B', 'G']) 7 none S0 [] =
    (RunResult.solved ['P', 'R', 'B', 'G'] 5, [['B', 'G', 'O', 'R'], ['G', 'O', 'R', 'Y'], ['O', 'B', 'P', 'G'], ['R', 'B', 'G', 'P'], ['P', 'R', 'B', 'G']]) := by
  refine (loopRun_none' (honest ['P', 'R', 'B', 'G']) 7 S0 []).trans ?_
  refine (loopRun_step ['P', 'R', 'B', 'G'] 7 6 ['B', 'G', 'O', 'R'] S0 [] 3 0 E65 ['G', 'O', 'R', 'Y'] [['B', 'G', 'O', 'R']] rfl ((calc_eq_fastP ['P', 'R', 'B', 'G'] ['B', 'G', 'O', 'R'] (by decide) (by decide)).trans (by decide)) (by decide) pe65 rfl nx65 (by decide) (by decide) (by decide)).trans ?_
  refine Eq.trans (step_lift ['B', 'G', 'O', 'R'] (?_ : loopRun (honest ['P', 'R', 'B', 'G']) 6 (some ['G', 'O', 'R', 'Y']) E65 [['B', 'G', 'O', 'R']] = (RunResult.solved ['P', 'R', 'B', 'G'] 5, [['G', 'O', 'R', 'Y'], ['O', 'B', 'P', 'G'], ['R', 'B', 'G', 'P'], ['P', 'R', 'B', 'G']]))) rfl
  refine (loopRun_step ['P', 'R', 'B', 'G'] 6 5 ['G', 'O', 'R', 'Y'] E65 [['B', 'G', 'O', 'R']] 2 0 E123 ['O', 'B', 'P', 'G'] [['B', 'G', 'O', 'R'], ['G', 'O', 'R', 'Y']] rfl ((calc_eq_fastP ['P', 'R', 'B', 'G'] ['G', 'O', 'R', 'Y'] (by decide) (by decide)).trans (by decide)) (by decide) pe123 rfl nx123 (by decide) (by decide) (by decide)).trans ?_
  refine Eq.trans (step_lift ['G', 'O', 'R', 'Y'] (?_ : loopRun (honest ['P', 'R', 'B', 'G']) 5 (some ['O', 'B', 'P', 'G']) E123 [['B', 'G', 'O', 'R'], ['G', 'O', 'R', 'Y']] = (RunResult.solved ['P', 'R', 'B', 'G'] 5, [['O', 'B', 'P', 'G'], ['R', 'B', 'G', 'P'], ['P', 'R', 'B', 'G']]))) rfl
  refine (loopRun_step ['P', 'R', 'B', 'G'] 5 4 ['O', 'B', 'P', 'G'] E123 [['B', 'G', 'O', 'R'], ['G', 'O', 'R', 'Y']] 2 1 E148 ['R', 'B', 'G', 'P'] [['B', 'G', 'O', 'R'], ['G', 'O', 'R', 'Y'], ['O', 'B', 'P', 'G']] rfl ((calc_eq_fastP ['P', 'R', 'B', 'G'] ['O', 'B', 'P', 'G'] (by decide) (by decide)).trans (by decide)) (by decide) pe148 rfl nx148 (by decide) (by decide) (by decide)).trans ?_
  refine Eq.trans (step_lift ['O', 'B', 'P', 'G'] (?_ : loopRun (honest ['P', 'R', 'B', 'G']) 4 (some ['R', 'B', 'G', 'P']) E148 [['B', 'G', 'O', 'R'], ['G', 'O', 'R', 'Y'], ['O', 'B', 'P', 'G']] = (RunResult.solved ['P', 'R', 'B', 'G'] 5, [['R', 'B', 'G', 'P'], ['P', 'R', 'B', 'G']]))) rfl
  refine (loopRun_step ['P', 'R', 'B', 'G'] 4 3 ['R', 'B', 'G', 'P'] E148 [['B', 'G', 'O', 'R'], ['G', 'O', 'R', 'Y'], ['O', 'B', 'P', 'G']] 4 0 [['P', 'R', 'B', 'G']] ['P', 'R', 'B', 'G'] [['B', 'G', 'O', 'R'], ['G', 'O', 'R', 'Y'], ['O', 'B', 'P', 'G'], ['R', 'B', 'G', 'P']] rfl ((calc_eq_fastP ['P', 'R', 'B', 'G'] ['R', 'B', 'G', 'P'] (by decide) (by decide)).trans (by decide)) (by decide) pe335 rfl (findNextGuess_singleton ['P', 'R', 'B', 'G'] [['B', 'G', 'O', 'R'], ['G', 'O', 'R', 'Y'], ['O', 'B', 'P', 'G'], ['R', 'B', 'G', 'P']]) (by decide) (by decide) (by decide)).trans ?_
  refine Eq.trans (step_lift ['R', 'B', 'G', 'P'] (?_ : loopRun (honest ['P', 'R', 'B', 'G']) 3 (some ['P', 'R', 'B', 'G']) [['P', 'R', 'B', 'G']] [['B', 'G', 'O', 'R'], ['G', 'O', 'R', 'Y'], ['O', 'B', 'P', 'G'], ['R', 'B', 'G', 'P']] = (RunResult.solved ['P', 'R', 'B', 'G'] 5, [['P', 'R', 'B', 'G']]))) rfl
  exact loopRun_last ['P', 'R', 'B', 'G'] 3 2 [['P', 'R', 'B', 'G']] [['B', 'G', 'O', 'R'], ['G', 'O', 'R', 'Y'], ['O', 'B', 'P', 'G'], ['R', 'B', 'G', 'P']] rfl rfl (by decide)

lemma rs337 : loopRun (honest ['P', 'R', 'B', 'O']) 7 none S0 [] =
    (RunResult.solved ['P', 'R', 'B', 'O'] 5, [['B', 'G', 'O', 'R'], ['G', 'O', 'R', 'Y'], ['O', 'B', 'P', 'G'], ['R', 'P', 'B', 'O'], ['P', 'R', 'B', 'O']]) := by
  refine (loopRun_none' (honest ['P', 'R', 'B', 'O']) 7 S0 []).trans ?_
  refine (loopRun_step ['P', 'R', 'B', 'O'] 7 6 ['B', 'G', 'O', 'R'] S0 [] 3 0 E65 ['G', 'O', 'R', 'Y'] [['B', 'G', 'O', 'R']] rfl ((calc_eq_fastP ['P', 'R', 'B', 'O'] ['B', 'G', 'O', 'R'] (by decide) (by decide)).trans (by decide)) (by decide) pe65 rfl nx65 (by decide) (by decide) (by decide)).trans ?_
  refine Eq.trans (step_lift ['B', 'G', 'O', 'R'] (?_ : loopRun (honest ['P', 'R', 'B', 'O']) 6 (some ['G', 'O', 'R', 'Y']) E65 [['B', 'G', 'O', 'R']] = (RunResult.solved ['P', 'R', 'B', 'O'] 5, [['G', 'O', 'R', 'Y'], ['O', 'B', 'P', 'G'], ['R', 'P', 'B', 'O'], ['P', 'R', 'B', 'O']]))) rfl
  refine (loopRun_step ['P', 'R', 'B', 'O'] 6 5 ['G', 'O', 'R', 'Y'] E65 [['B', 'G', 'O', 'R']] 2 0 E123 ['O', 'B', 'P', 'G'] [['B', 'G', 'O', 'R'], ['G', 'O', 'R', 'Y']] rfl ((calc_eq_fastP ['P', 'R', 'B', 'O'] ['G', 'O', 'R', 'Y'] (by decide) (by decide)).trans (by decide)) (by decide) pe123 rfl nx123 (by decide) (by decide) (by decide)).trans ?_
  refine Eq.trans (step_lift ['G', 'O', 'R', 'Y'] (?_ : loopRun (honest ['P', 'R', 'B', 'O']) 5 (some ['O', 'B', 'P', 'G']) E123 [['B', 'G', 'O', 'R'], ['G', 'O', 'R', 'Y']] = (RunResult.solved ['P', 'R', 'B', 'O'] 5, [['O', 'B', 'P', 'G'], ['R', 'P', 'B', 'O'], ['P', 'R', 'B', 'O']]))) rfl
  refine (loopRun_step ['P', 'R', 'B', 'O'] 5 4 ['O', 'B', 'P', 'G'] E123 [['B', 'G', 'O', 'R'], ['G', 'O', 'R', 'Y']] 3 0 E229 ['R', 'P', 'B', 'O'] [['B', 'G', 'O', 'R'], ['G', 'O', 'R', 'Y'], ['O', 'B', 'P', 'G']] rfl ((calc_eq_fastP ['P', 'R', 'B', 'O'] ['O', 'B', 'P', 'G'] (by decide) (by decide)).trans (by decide)) (by decide) pe229 rfl nx229 (by decide) (by decide) (by decide)).trans ?_
  refine Eq.trans (step_lift ['O', 'B', 'P', 'G'] (?_ : loopRun (honest ['P', 'R', 'B', 'O']) 4 (some ['R', 'P', 'B', 'O']) E229 [['B', 'G', 'O', 'R'], ['G', 'O', 'R', 'Y'], ['O', 'B', 'P', 'G']] = (RunResult.solved ['P', 'R', 'B', 'O'] 5, [['R', 'P', 'B', 'O'], ['P', 'R', 'B', 'O']]))) rfl
  refine (loopRun_step ['P', 'R', 'B', 'O'] 4 3 ['R', 'P', 'B', 'O'] E229 [['B', 'G', 'O', 'R'], ['G', 'O', 'R', 'Y'], ['O', 'B', 'P', 'G']] 2 2 [['P', 'R', 'B', 'O']] ['P', 'R', 'B', 'O'] [['B', 'G', 'O', 'R'], ['G', 'O', 'R', 'Y'], ['O', 'B', 'P', 'G'], ['R', 'P', 'B', 'O']] rfl ((calc_eq_fastP ['P', 'R', 'B', 'O'] ['R', 'P', 'B', 'O'] (by decide) (by decide)).trans (by decide)) (by decide) pe336 rfl (findNextGuess_singleton ['P', 'R', 'B', 'O'] [['B', 'G', 'O', 'R'], ['G', 'O', 'R', 'Y'], ['O', 'B', 'P', 'G'], ['R', 'P', 'B', 'O']]) (by decide) (by decide) (by decide)).trans ?_
  refine Eq.trans (step_lift ['R', 'P', 'B', 'O'] (?_ : loopRun (honest ['P', 'R', 'B', 'O']) 3 (some ['P', 'R', 'B', 'O']) [['P', 'R', 'B', 'O']] [['B', 'G', 'O', 'R'], ['G', 'O', 'R', 'Y'], ['O', 'B', 'P', 'G'], ['R', 'P', 'B', 'O']] = (RunResult.solved ['P', 'R', 'B', 'O'] 5, [['P', 'R', 'B', 'O']]))) rfl
  exact loopRun_last ['P', 'R', 'B', 'O'] 3 2 [['P', 'R', 'B', 'O']] [['B', 'G', 'O', 'R'], ['G', 'O', 'R', 'Y'], ['O', 'B', 'P', 'G'], ['R', 'P', 'B', 'O']] rfl rfl (by decide)

lemma rs338 : loopRun (honest ['P', 'R', 'B', 'Y']) 7 none S0 [] =
    (RunResult.solved ['P', 'R', 'B', 'Y'] 5, [['B', 'G', 'O', 'R'], ['G', 'Y', 'R', 'P'], ['R', 'B', 'P', 'Y'], ['R', 'P', 'Y', 'B'], ['P', 'R', 'B', 'Y']]) := by
  refine (loopRun_none' (honest ['P', 'R', 'B', 'Y']) 7 S0 []).trans ?_
  refine (loopRun_step ['P', 'R', 'B', 'Y'] 7 6 ['B', 'G', 'O', 'R'] S0 [] 2 0 E72 ['G', 'Y', 'R', 'P'] [['B', 'G', 'O', 'R']] rfl ((calc_eq_fastP ['P', 'R', 'B', 'Y'] ['B', 'G', 'O', 'R'] (by decide) (by decide)).trans (by decide)) (by decide) pe72 rfl nx72 (by decide) (by decide) (by decide)).trans ?_
  refine Eq.trans (step_lift ['B', 'G', 'O', 'R'] (?_ : loopRun (honest ['P', 'R', 'B', 'Y']) 6 (some ['G', 'Y', 'R', 'P']) E72 [['B', 'G', 'O', 'R']] = (RunResult.solved ['P', 'R', 'B', 'Y'] 5, [['G', 'Y', 'R', 'P'], ['R', 'B', 'P', 'Y'], ['R', 'P', 'Y', 'B'], ['P', 'R', 'B', 'Y']]))) rfl
  refine (loopRun_step ['P', 'R', 'B', 'Y'] 6 5 ['G', 'Y', 'R', 'P'] E72 [['B', 'G', 'O', 'R']] 3 0 E158 ['R', 'B', 'P', 'Y'] [['B', 'G', 'O', 'R'], ['G', 'Y', 'R', 'P']] rfl ((calc_eq_fastP ['P', 'R', 'B', 'Y'] ['G', 'Y', 'R', 'P'] (by decide) (by decide)).trans (by decide)) (by decide) pe158 rfl nx158 (by decide) (by decide) (by decide)).trans ?_
  refine Eq.trans (step_lift ['G', 'Y', 'R', 'P'] (?_ : loopRun (honest ['P', 'R', 'B', 'Y']) 5 (some ['R', 'B', 'P', 'Y']) E158 [['B', 'G', 'O', 'R'], ['G', 'Y', 'R', 'P']] = (RunResult.solved ['P', 'R', 'B', 'Y'] 5, [['R', 'B', 'P', 'Y'], ['R', 'P', 'Y', 'B'], ['P', 'R', 'B', 'Y']]))) rfl
  refine (loopRun_step ['P', 'R', 'B', 'Y'] 5 4 ['R', 'B', 'P', 'Y'] E158 [['B', 'G', 'O', 'R'], ['G', 'Y', 'R', 'P']] 3 1 E237 ['R', 'P', 'Y', 'B'] [['B', 'G', 'O', 'R'], ['G', 'Y', 'R', 'P'], ['R', 'B', 'P', 'Y']] rfl ((calc_eq_fastP ['P', 'R', 'B', 'Y'] ['R', 'B', 'P', 'Y'] (by decide) (by decide)).trans (by decide)) (by decide) pe237 rfl nx237 (by decide) (by decide) (by decide)).trans ?_
  refine Eq.trans (step_lift ['R', 'B', 'P', 'Y'] (?_ : loopRun (honest ['P', 'R', 'B', 'Y']) 4 (some ['R', 'P', 'Y', 'B']) E237 [['B', 'G', 'O', 'R'], ['G', 'Y', 'R', 'P'], ['R', 'B', 'P', 'Y']] = (RunResult.solved ['P', 'R', 'B', 'Y'] 5, [['R', 'P', 'Y', 'B'], ['P', 'R', 'B', 'Y']]))) rfl
  refine (loopRun_step ['P', 'R', 'B', 'Y'] 4 3 ['R', 'P', 'Y', 'B'] E237 [['B', 'G', 'O', 'R'], ['G', 'Y', 'R', 'P'], ['R', 'B', 'P', 'Y']] 4 0 [['P', 'R', 'B', 'Y']] ['P', 'R', 'B', 'Y'] [['B', 'G', 'O', 'R'], ['G', 'Y', 'R', 'P'], ['R', 'B', 'P', 'Y'], ['R', 'P', 'Y', 'B']] rfl ((calc_eq_fastP ['P', 'R', 'B', 'Y'] ['R', 'P', 'Y', 'B'] (by decide) (by decide)).trans (by decide)) (by decide) pe337 rfl (findNextGuess_singleton ['P', 'R', 'B', 'Y'] [['B', 'G', 'O', 'R'], ['G', 'Y', 'R', 'P'], ['R', 'B', 'P', 'Y'], ['R', 'P', 'Y', 'B']]) (by decide) (by decide) (by decide)).trans ?_
  refine Eq.trans (step_lift ['R', 'P', 'Y', 'B'] (?_ : loopRun (honest ['P', 'R', 'B', 'Y']) 3 (some ['P', 'R', 'B', 'Y']) [['P', 'R', 'B', 'Y']] [['B', 'G', 'O', 'R'], ['G', 'Y', 'R', 'P'], ['R', 'B', 'P', 'Y'], ['R', 'P', 'Y', 'B']] = (RunResult.solved ['P', 'R', 'B', 'Y'] 5, [['P', 'R', 'B', 'Y']]))) rfl
  exact loopRun_last ['P', 'R', 'B', 'Y'] 3 2 [['P', 'R', 'B', 'Y']] [['B', 'G', 'O', 'R'], ['G', 'Y', 'R', 'P'], ['R', 'B', 'P', 'Y'], ['R', 'P', 'Y', 'B']] rfl rfl (by decide)

lemma rs339 : loopRun (honest ['P', 'R', 'G', 'B']) 7 none S0 [] =
    (RunResult.solved ['P', 'R', 'G', 'B'] 5, [['B', 'G', 'O', 'R'], ['G', 'O', 'R', 'Y'], ['O', 'B', 'P', 'G'], ['R', 'P', 'B', 'O'], ['P', 'R', 'G', 'B']]) := by
  refine (loopRun_none' (honest ['P', 'R', 'G', 'B']) 7 S0 []).trans ?_
  refine (loopRun_step ['P', 'R', 'G', 'B'] 7 6 ['B', 'G', 'O', 'R'] S0 [] 3 0 E65 ['G', 'O', 'R', 'Y'] [['B', 'G', 'O', 'R']] rfl ((calc_eq_fastP ['P', 'R', 'G', 'B'] ['B', 'G', 'O', 'R'] (by decide) (by decide)).trans (by decide)) (by decide) pe65 rfl nx65 (by decide) (by decide) (by decide)).trans ?_
  refine Eq.trans (step_lift ['B', 'G', 'O', 'R'] (?_ : loopRun (honest ['P', 'R', 'G', 'B']) 6 (some ['G', 'O', 'R', 'Y']) E65 [['B', 'G', 'O', 'R']] = (RunResult.solved ['P', 'R', 'G', 'B'] 5, [['G', 'O', 'R', 'Y'], ['O', 'B', 'P', 'G'], ['R', 'P', 'B', 'O'], ['P', 'R', 'G', 'B']]))) rfl
  refine (loopRun_step ['P', 'R', 'G', 'B'] 6 5 ['G', 'O', 'R', 'Y'] E65 [['B', 'G', 'O', 'R']] 2 0 E123 ['O', 'B', 'P', 'G'] [['B', 'G', 'O', 'R'], ['G', 'O', 'R', 'Y']] rfl ((calc_eq_fastP ['P', 'R', 'G', 'B'] ['G', 'O', 'R', 'Y'] (by decide) (by decide)).trans (by decide)) (by decide) pe123 rfl nx123 (by decide) (by decide) (by decide)).trans ?_
  refine Eq.trans (step_lift ['G', 'O', 'R', 'Y'] (?_ : loopRun (honest ['P', 'R', 'G', 'B']) 5 (some ['O', 'B', 'P', 'G']) E123 [['B', 'G', 'O', 'R'], ['G', 'O', 'R', 'Y']] = (RunResult.solved ['P', 'R', 'G', 'B'] 5, [['O', 'B', 'P', 'G'], ['R', 'P', 'B', 'O'], ['P', 'R', 'G', 'B']]))) rfl
  refine (loopRun_step ['P', 'R', 'G', 'B'] 5 4 ['O', 'B', 'P', 'G'] E123 [['B', 'G', 'O', 'R'], ['G', 'O', 'R', 'Y']] 3 0 E229 ['R', 'P', 'B', 'O'] [['B', 'G', 'O', 'R'], ['G', 'O', 'R', 'Y'], ['O', 'B', 'P', 'G']] rfl ((calc_eq_fastP ['P', 'R', 'G', 'B'] ['O', 'B', 'P', 'G'] (by decide) (by decide)).trans (by decide)) (by decide) pe229 rfl nx229 (by decide) (by decide) (by decide)).trans ?_
  refine Eq.trans (step_lift ['O', 'B', 'P', 'G'] (?_ : loopRun (honest ['P', 'R', 'G', 'B']) 4 (some ['R', 'P', 'B', 'O']) E229 [['B', 'G', 'O', 'R'], ['G', 'O', 'R', 'Y'], ['O', 'B', 'P', 'G']] = (RunResult.solved ['P', 'R', 'G', 'B'] 5, [['R', 'P', 'B', 'O'], ['P', 'R', 'G', 'B']]))) rfl
  refine (loopRun_step ['P', 'R', 'G', 'B'] 4 3 ['R', 'P', 'B', 'O'] E229 [['B', 'G', 'O', 'R'], ['G', 'O', 'R', 'Y'], ['O', 'B', 'P', 'G']] 3 0 [['P', 'R', 'G', 'B']] ['P', 'R', 'G', 'B'] [['B', 'G', 'O', 'R'], ['G', 'O', 'R', 'Y'], ['O', 'B', 'P', 'G'], ['R', 'P', 'B', 'O']] rfl ((calc_eq_fastP ['P', 'R', 'G', 'B'] ['R', 'P', 'B', 'O'] (by decide) (by decide)).trans (by decide)) (by decide) pe338 rfl (findNextGuess_singleton ['P', 'R', 'G', 'B'] [['B', 'G', 'O', 'R'], ['G', 'O', 'R', 'Y'], ['O', 'B', 'P', 'G'], ['R', 'P', 'B', 'O']]) (by decide) (by decide) (by decide)).trans ?_
  refine Eq.trans (step_lift ['R', 'P', 'B', 'O'] (?_ : loopRun (honest ['P', 'R', 'G', 'B']) 3 (some ['P', 'R', 'G', 'B']) [['P', 'R', 'G', 'B']] [['B', 'G', 'O', 'R'], ['G', 'O', 'R', 'Y'], ['O', 'B', 'P', 'G'], ['R', 'P', 'B', 'O']] = (RunResult.solved ['P', 'R', 'G', 'B'] 5, [['P', 'R', 'G', 'B']]))) rfl
  exact loopRun_last ['P', 'R', 'G', 'B'] 3 2 [['P', 'R', 'G', 'B']] [['B', 'G', 'O', 'R'], ['G', 'O', 'R', 'Y'], ['O', 'B', 'P', 'G'], ['R', 'P', 'B', 'O']] rfl rfl (by decide)

lemma rs340 : loopRun (honest ['P', 'R', 'G', 'O']) 7 none S0 [] =
    (RunResult.solved ['P', 'R', 'G', 'O'] 5, [['B', 'G', 'O', 'R'], ['G', 'O', 'R', 'Y'], ['O', 'B', 'Y', 'G'], ['R', 'P', 'G', 'O'], ['P', 'R', 'G', 'O']]) := by
  refine (loopRun_none' (honest ['P', 'R', 'G', 'O']) 7 S0 []).trans ?_
  refine (loopRun_step ['P', 'R', 'G', 'O'] 7 6 ['B', 'G', 'O', 'R'] S0 [] 3 0 E65 ['G', 'O', 'R', 'Y'] [['B', 'G', 'O', 'R']] rfl ((calc_eq_fastP ['P', 'R', 'G', 'O'] ['B', 'G', 'O', 'R'] (by decide) (by decide)).trans (by decide)) (by decide) pe65 rfl nx65 (by decide) (by decide) (by decide)).trans ?_
  refine Eq.trans (step_lift ['B', 'G', 'O', 'R'] (?_ : loopRun (honest ['P', 'R', 'G', 'O']) 6 (some ['G', 'O', 'R', 'Y']) E65 [['B', 'G', 'O', 'R']] = (RunResult.solved ['P', 'R', 'G', 'O'] 5, [['G', 'O', 'R', 'Y'], ['O', 'B', 'Y', 'G'], ['R', 'P', 'G', 'O'], ['P', 'R', 'G', 'O']]))) rfl
  refine (loopRun_step ['P', 'R', 'G', 'O'] 6 5 ['G', 'O', 'R', 'Y'] E65 [['B', 'G', 'O', 'R']] 3 0 E128 ['O', 'B', 'Y', 'G'] [['B', 'G', 'O', 'R'], ['G', 'O', 'R', 'Y']] rfl ((calc_eq_fastP ['P', 'R', 'G', 'O'] ['G', 'O', 'R', 'Y'] (by decide) (by decide)).trans (by decide)) (by decide) pe128 rfl nx128 (by decide) (by decide) (by decide)).trans ?_
  refine Eq.trans (step_lift ['G', 'O', 'R', 'Y'] (?_ : loopRun (honest ['P', 'R', 'G', 'O']) 5 (some ['O', 'B', 'Y', 'G']) E128 [['B', 'G', 'O', 'R'], ['G', 'O', 'R', 'Y']] = (RunResult.solved ['P', 'R', 'G', 'O'] 5, [['O', 'B', 'Y', 'G'], ['R', 'P', 'G', 'O'], ['P', 'R', 'G', 'O']]))) rfl
  refine (loopRun_step ['P', 'R', 'G', 'O'] 5 4 ['O', 'B', 'Y', 'G'] E128 [['B', 'G', 'O', 'R'], ['G', 'O', 'R', 'Y']] 2 0 E232 ['R', 'P', 'G', 'O'] [['B', 'G', 'O', 'R'], ['G', 'O', 'R', 'Y'], ['O', 'B', 'Y', 'G']] rfl ((calc_eq_fastP ['P', 'R', 'G', 'O'] ['O', 'B', 'Y', 'G'] (by decide) (by decide)).trans (by decide)) (by decide) pe232 rfl nx232 (by decide) (by decide) (by decide)).trans ?_
  refine Eq.trans (step_lift ['O', 'B', 'Y', 'G'] (?_ : loopRun (honest ['P', 'R', 'G', 'O']) 4 (some ['R', 'P', 'G', 'O']) E232 [['B', 'G', 'O', 'R'], ['G', 'O', 'R', 'Y'], ['O', 'B', 'Y', 'G']] = (RunResult.solved ['P', 'R', 'G', 'O'] 5, [['R', 'P', 'G', 'O'], ['P', 'R', 'G', 'O']]))) rfl
  refine (loopRun_step ['P', 'R', 'G', 'O'] 4 3 ['R', 'P', 'G', 'O'] E232 [['B', 'G', 'O', 'R'], ['G', 'O', 'R', 'Y'], ['O', 'B', 'Y', 'G']] 2 2 [['P', 'R', 'G', 'O']] ['P', 'R', 'G', 'O'] [['B', 'G', 'O', 'R'], ['G', 'O', 'R', 'Y'], ['O', 'B', 'Y', 'G'], ['R', 'P', 'G', 'O']] rfl ((calc_eq_fastP ['P', 'R', 'G', 'O'] ['R', 'P', 'G', 'O'] (by decide) (by decide)).trans (by decide)) (by decide) pe339 rfl (findNextGuess_singleton ['P', 'R', 'G', 'O'] [['B', 'G', 'O', 'R'], ['G', 'O', 'R', 'Y'], ['O', 'B', 'Y', 'G'], ['R', 'P', 'G', 'O']]) (by decide) (by decide) (by decide)).trans ?_
  refine Eq.trans (step_lift ['R', 'P', 'G', 'O'] (?_ : loopRun (honest ['P', 'R', 'G', 'O']) 3 (some ['P', 'R', 'G', 'O']) [['P', 'R', 'G', 'O']] [['B', 'G', 'O', 'R'], ['G', 'O', 'R', 'Y'], ['O', 'B', 'Y', 'G'], ['R', 'P', 'G', 'O']] = (RunResult.solved ['P', 'R', 'G', 'O'] 5, [['P', 'R', 'G', 'O']]))) rfl
  exact loopRun_last ['P', 'R', 'G', 'O'] 3 2 [['P', 'R', 'G', 'O']] [['B', 'G', 'O', 'R'], ['G', 'O', 'R', 'Y'], ['O', 'B', 'Y', 'G'], ['R', 'P', 'G', 'O']] rfl rfl (by decide)

lemma rs341 : loopRun (honest ['P', 'R', 'G', 'Y']) 7 none S0 [] =
    (RunResult.solved ['P', 'R', 'G', 'Y'] 5, [['B', 'G', 'O', 'R'], ['G', 'Y', 'R', 'P'], ['R', 'P', 'G', 'Y'], ['R', 'P', 'Y', 'G'], ['P', 'R', 'G', 'Y']]) := by
  refine (loopRun_none' (honest ['P', 'R', 'G', 'Y']) 7 S0 []).trans ?_
  refine (loopRun_step ['P', 'R', 'G', 'Y'] 7 6 ['B', 'G', 'O', 'R'] S0 [] 2 0 E72 ['G', 'Y', 'R', 'P'] [['B', 'G', 'O', 'R']] rfl ((calc_eq_fastP ['P', 'R', 'G', 'Y'] ['B', 'G', 'O', 'R'] (by decide) (by decide)).trans (by decide)) (by decide) pe72 rfl nx72 (by decide) (by decide) (by decide)).trans ?_
  refine Eq.trans (step_lift ['B', 'G', 'O', 'R'] (?_ : loopRun (honest ['P', 'R', 'G', 'Y']) 6 (some ['G', 'Y', 'R', 'P']) E72 [['B', 'G', 'O', 'R']] = (RunResult.solved ['P', 'R', 'G', 'Y'] 5, [['G', 'Y', 'R', 'P'], ['R', 'P', 'G', 'Y'], ['R', 'P', 'Y', 'G'], ['P', 'R', 'G', 'Y']]))) rfl
  refine (loopRun_step ['P', 'R', 'G', 'Y'] 6 5 ['G', 'Y', 'R', 'P'] E72 [['B', 'G', 'O', 'R']] 4 0 E233 ['R', 'P', 'G', 'Y'] [['B', 'G', 'O', 'R'], ['G', 'Y', 'R', 'P']] rfl ((calc_eq_fastP ['P', 'R', 'G', 'Y'] ['G', 'Y', 'R', 'P'] (by decide) (by decide)).trans (by decide)) (by decide) pe233 rfl nx233 (by decide) (by decide) (by decide)).trans ?_
  refine Eq.trans (step_lift ['G', 'Y', 'R', 'P'] (?_ : loopRun (honest ['P', 'R', 'G', 'Y']) 5 (some ['R', 'P', 'G', 'Y']) E233 [['B', 'G', 'O', 'R'], ['G', 'Y', 'R', 'P']] = (RunResult.solved ['P', 'R', 'G', 'Y'] 5, [['R', 'P', 'G', 'Y'], ['R', 'P', 'Y', 'G'], ['P', 'R', 'G', 'Y']]))) rfl
  refine (loopRun_step ['P', 'R', 'G', 'Y'] 5 4 ['R', 'P', 'G', 'Y'] E233 [['B', 'G', 'O', 'R'], ['G', 'Y', 'R', 'P']] 2 2 E238 ['R', 'P', 'Y', 'G'] [['B', 'G', 'O', 'R'], ['G', 'Y', 'R', 'P'], ['R', 'P', 'G', 'Y']] rfl ((calc_eq_fastP ['P', 'R', 'G', 'Y'] ['R', 'P', 'G', 'Y'] (by decide) (by decide)).trans (by decide)) (by decide) pe238 rfl nx238 (by decide) (by decide) (by decide)).trans ?_
  refine Eq.trans (step_lift ['R', 'P', 'G', 'Y'] (?_ : loopRun (honest ['P', 'R', 'G', 'Y']) 4 (some ['R', 'P', 'Y', 'G']) E238 [['B', 'G', 'O', 'R'], ['G', 'Y', 'R', 'P'], ['R', 'P', 'G', 'Y']] = (RunResult.solved ['P', 'R', 'G', 'Y'] 5, [['R', 'P', 'Y', 'G'], ['P', 'R', 'G', 'Y']]))) rfl
  refine (loopRun_step ['P', 'R', 'G', 'Y'] 4 3 ['R', 'P', 'Y', 'G'] E238 [['B', 'G', 'O', 'R'], ['G', 'Y', 'R', 'P'], ['R', 'P', 'G', 'Y']] 4 0 [['P', 'R', 'G', 'Y']] ['P', 'R', 'G', 'Y'] [['B', 'G', 'O', 'R'], ['G', 'Y', 'R', 'P'], ['R', 'P', 'G', 'Y'], ['R', 'P', 'Y', 'G']] rfl ((calc_eq_fastP ['P', 'R', 'G', 'Y'] ['R', 'P', 'Y', 'G'] (by decide) (by decide)).trans (by decide)) (by decide) pe340 rfl (findNextGuess_singleton ['P', 'R', 'G', 'Y'] [['B', 'G', 'O', 'R'], ['G', 'Y', 'R', 'P'], ['R', 'P', 'G', 'Y'], ['R', 'P', 'Y', 'G']]) (by decide) (by decide) (by decide)).trans ?_
  refine Eq.trans (step_lift ['R', 'P', 'Y', 'G'] (?_ : loopRun (honest ['P', 'R', 'G', 'Y']) 3 (some ['P', 'R', 'G', 'Y']) [['P', 'R', 'G', 'Y']] [['B', 'G', 'O', 'R'], ['G', 'Y', 'R', 'P'], ['R', 'P', 'G', 'Y'], ['R', 'P', 'Y', 'G']] = (RunResult.solved ['P', 'R', 'G', 'Y'] 5, [['P', 'R', 'G', 'Y']]))) rfl
  exact loopRun_last ['P', 'R', 'G', 'Y'] 3 2 [['P', 'R', 'G', 'Y']] [['B', 'G', 'O', 'R'], ['G', 'Y', 'R', 'P'], ['R', 'P', 'G', 'Y'], ['R', 'P', 'Y', 'G']] rfl rfl (by decide)

lemma rs342 : loopRun (honest ['P', 'R', 'O', 'B']) 7 none S0 [] =
    (RunResult.solved ['P', 'R', 'O', 'B'] 5, [['B', 'G', 'O', 'R'], ['B', 'O', 'R', 'Y'], ['O', 'Y', 'G', 'R'], ['R', 'B', 'O', 'P'], ['P', 'R', 'O', 'B']]) := by
  refine (loopRun_none' (honest ['P', 'R', 'O', 'B']) 7 S0 []).trans ?_
  refine (loopRun_step ['P', 'R', 'O', 'B'] 7 6 ['B', 'G', 'O', 'R'] S0 [] 2 1 E13 ['B', 'O', 'R', 'Y'] [['B', 'G', 'O', 'R']] rfl ((calc_eq_fastP ['P', 'R', 'O', 'B'] ['B', 'G', 'O', 'R'] (by decide) (by decide)).trans (by decide)) (by decide) pe13 rfl nx13 (by decide) (by decide) (by decide)).trans ?_
  refine Eq.trans (step_lift ['B', 'G', 'O', 'R'] (?_ : loopRun (honest ['P', 'R', 'O', 'B']) 6 (some ['B', 'O', 'R', 'Y']) E13 [['B', 'G', 'O', 'R']] = (RunResult.solved ['P', 'R', 'O', 'B'] 5, [['B', 'O', 'R', 'Y'], ['O', 'Y', 'G', 'R'], ['R', 'B', 'O', 'P'], ['P', 'R', 'O', 'B']]))) rfl
  refine (loopRun_step ['P', 'R', 'O', 'B'] 6 5 ['B', 'O', 'R', 'Y'] E13 [['B', 'G', 'O', 'R']] 3 0 E69 ['O', 'Y', 'G', 'R'] [['B', 'G', 'O', 'R'], ['B', 'O', 'R', 'Y']] rfl ((calc_eq_fastP ['P', 'R', 'O', 'B'] ['B', 'O', 'R', 'Y'] (by decide) (by decide)).trans (by decide)) (by decide) pe69 rfl nx69 (by decide) (by decide) (by decide)).trans ?_
  refine Eq.trans (step_lift ['B', 'O', 'R', 'Y'] (?_ : loopRun (honest ['P', 'R', 'O', 'B']) 5 (some ['O', 'Y', 'G', 'R']) E69 [['B', 'G', 'O', 'R'], ['B', 'O', 'R', 'Y']] = (RunResult.solved ['P', 'R', 'O', 'B'] 5, [['O', 'Y', 'G', 'R'], ['R', 'B', 'O', 'P'], ['P', 'R', 'O', 'B']]))) rfl
  refine (loopRun_step ['P', 'R', 'O', 'B'] 5 4 ['O', 'Y', 'G', 'R'] E69 [['B', 'G', 'O', 'R'], ['B', 'O', 'R', 'Y']] 2 0 E187 ['R', 'B', 'O', 'P'] [['B', 'G', 'O', 'R'], ['B', 'O', 'R', 'Y'], ['O', 'Y', 'G', 'R']] rfl ((calc_eq_fastP ['P', 'R', 'O', 'B'] ['O', 'Y', 'G', 'R'] (by decide) (by decide)).trans (by decide)) (by decide) pe187 rfl nx187 (by decide) (by decide) (by decide)).trans ?_
  refine Eq.trans (step_lift ['O', 'Y', 'G', 'R'] (?_ : loopRun (honest ['P', 'R', 'O', 'B']) 4 (some ['R', 'B', 'O', 'P']) E187 [['B', 'G', 'O', 'R'], ['B', 'O', 'R', 'Y'], ['O', 'Y', 'G', 'R']] = (RunResult.solved ['P', 'R', 'O', 'B'] 5, [['R', 'B', 'O', 'P'], ['P', 'R', 'O', 'B']]))) rfl
  refine (loopRun_step ['P', 'R', 'O', 'B'] 4 3 ['R', 'B', 'O', 'P'] E187 [['B', 'G', 'O', 'R'], ['B', 'O', 'R', 'Y'], ['O', 'Y', 'G', 'R']] 3 1 [['P', 'R', 'O', 'B']] ['P', 'R', 'O', 'B'] [['B', 'G', 'O', 'R'], ['B', 'O', 'R', 'Y'], ['O', 'Y', 'G', 'R'], ['R', 'B', 'O', 'P']] rfl ((calc_eq_fastP ['P', 'R', 'O', 'B'] ['R', 'B', 'O', 'P'] (by decide) (by decide)).trans (by decide)) (by decide) pe341 rfl (findNextGuess_singleton ['P', 'R', 'O', 'B'] [['B', 'G', 'O', 'R'], ['B', 'O', 'R', 'Y'], ['O', 'Y', 'G', 'R'], ['R', 'B', 'O', 'P']]) (by decide) (by decide) (by decide)).trans ?_
  refine Eq.trans (step_lift ['R', 'B', 'O', 'P'] (?_ : loopRun (honest ['P', 'R', 'O', 'B']) 3 (some ['P', 'R', 'O', 'B']) [['P', 'R', 'O', 'B']] [['B', 'G', 'O', 'R'], ['B', 'O', 'R', 'Y'], ['O', 'Y', 'G', 'R'], ['R', 'B', 'O', 'P']] = (RunResult.solved ['P', 'R', 'O', 'B'] 5, [['P', 'R', 'O', 'B']]))) rfl
  exact loopRun_last ['P', 'R', 'O', 'B'] 3 2 [['P', 'R', 'O', 'B']] [['B', 'G', 'O', 'R'], ['B', 'O', 'R', 'Y'], ['O', 'Y', 'G', 'R'], ['R', 'B', 'O', 'P']] rfl rfl (by decide)

lemma rs343 : loopRun (honest ['P', 'R', 'O', 'G']) 7 none S0 [] =
    (RunResult.solved ['P', 'R', 'O', 'G'] 5, [['B', 'G', 'O', 'R'], ['B', 'O', 'R', 'Y'], ['G', 'P', 'O', 'B'], ['G', 'B', 'P', 'R'], ['P', 'R', 'O', 'G']]) := by
  refine (loopRun_none' (honest ['P', 'R', 'O', 'G']) 7 S0 []).trans ?_
  refine (loopRun_step ['P', 'R', 'O', 'G'] 7 6 ['B', 'G', 'O', 'R'] S0 [] 2 1 E13 ['B', 'O', 'R', 'Y'] [['B', 'G', 'O', 'R']] rfl ((calc_eq_fastP ['P', 'R', 'O', 'G'] ['B', 'G', 'O', 'R'] (by decide) (by decide)).trans (by decide)) (by decide) pe13 rfl nx13 (by decide) (by decide) (by decide)).trans ?_
  refine Eq.trans (step_lift ['B', 'G', 'O', 'R'] (?_ : loopRun (honest ['P', 'R', 'O', 'G']) 6 (some ['B', 'O', 'R', 'Y']) E13 [['B', 'G', 'O', 'R']] = (RunResult.solved ['P', 'R', 'O', 'G'] 5, [['B', 'O', 'R', 'Y'], ['G', 'P', 'O', 'B'], ['G', 'B', 'P', 'R'], ['P', 'R', 'O', 'G']]))) rfl
  refine (loopRun_step ['P', 'R', 'O', 'G'] 6 5 ['B', 'O', 'R', 'Y'] E13 [['B', 'G', 'O', 'R']] 2 0 E62 ['G', 'P', 'O', 'B'] [['B', 'G', 'O', 'R'], ['B', 'O', 'R', 'Y']] rfl ((calc_eq_fastP ['P', 'R', 'O', 'G'] ['B', 'O', 'R', 'Y'] (by decide) (by decide)).trans (by decide)) (by decide) pe62 rfl nx62 (by decide) (by decide) (by decide)).trans ?_
  refine Eq.trans (step_lift ['B', 'O', 'R', 'Y'] (?_ : loopRun (honest ['P', 'R', 'O', 'G']) 5 (some ['G', 'P', 'O', 'B']) E62 [['B', 'G', 'O', 'R'], ['B', 'O', 'R', 'Y']] = (RunResult.solved ['P', 'R', 'O', 'G'] 5, [['G', 'P', 'O', 'B'], ['G', 'B', 'P', 'R'], ['P', 'R', 'O', 'G']]))) rfl
  refine (loopRun_step ['P', 'R', 'O', 'G'] 5 4 ['G', 'P', 'O', 'B'] E62 [['B', 'G', 'O', 'R'], ['B', 'O', 'R', 'Y']] 2 1 E77 ['G', 'B', 'P', 'R'] [['B', 'G', 'O', 'R'], ['B', 'O', 'R', 'Y'], ['G', 'P', 'O', 'B']] rfl ((calc_eq_fastP ['P', 'R', 'O', 'G'] ['G', 'P', 'O', 'B'] (by decide) (by decide)).trans (by decide)) (by decide) pe77 rfl nx77 (by decide) (by decide) (by decide)).trans ?_
  refine Eq.trans (step_lift ['G', 'P', 'O', 'B'] (?_ : loopRun (honest ['P', 'R', 'O', 'G']) 4 (some ['G', 'B', 'P', 'R']) E77 [['B', 'G', 'O', 'R'], ['B', 'O', 'R', 'Y'], ['G', 'P', 'O', 'B']] = (RunResult.solved ['P', 'R', 'O', 'G'] 5, [['G', 'B', 'P', 'R'], ['P', 'R', 'O', 'G']]))) rfl
  refine (loopRun_step ['P', 'R', 'O', 'G'] 4 3 ['G', 'B', 'P', 'R'] E77 [['B', 'G', 'O', 'R'], ['B', 'O', 'R', 'Y'], ['G', 'P', 'O', 'B']] 3 0 [['P', 'R', 'O', 'G']] ['P', 'R', 'O', 'G'] [['B', 'G', 'O', 'R'], ['B', 'O', 'R', 'Y'], ['G', 'P', 'O', 'B'], ['G', 'B', 'P', 'R']] rfl ((calc_eq_fastP ['P', 'R', 'O', 'G'] ['G', 'B', 'P', 'R'] (by decide) (by decide)).trans (by decide)) (by decide) pe342 rfl (findNextGuess_singleton ['P', 'R', 'O', 'G'] [['B', 'G', 'O', 'R'], ['B', 'O', 'R', 'Y'], ['G', 'P', 'O', 'B'], ['G', 'B', 'P', 'R']]) (by decide) (by decide) (by decide)).trans ?_
  refine Eq.trans (step_lift ['G', 'B', 'P', 'R'] (?_ : loopRun (honest ['P', 'R', 'O', 'G']) 3 (some ['P', 'R', 'O', 'G']) [['P', 'R', 'O', 'G']] [['B', 'G', 'O', 'R'], ['B', 'O', 'R', 'Y'], ['G', 'P', 'O', 'B'], ['G', 'B', 'P', 'R']] = (RunResult.solved ['P', 'R', 'O', 'G'] 5, [['P', 'R', 'O', 'G']]))) rfl
  exact loopRun_last ['P', 'R', 'O', 'G'] 3 2 [['P', 'R', 'O', 'G']] [['B', 'G', 'O', 'R'], ['B', 'O', 'R', 'Y'], ['G', 'P', 'O', 'B'], ['G', 'B', 'P', 'R']] rfl rfl (by decide)

lemma rs344 : loopRun (honest ['P', 'R', 'O', 'Y']) 7 none S0 [] =
    (RunResult.solved ['P', 'R', 'O', 'Y'] 4, [['B', 'G', 'O', 'R'], ['B', 'O', 'Y', 'P'], ['G', 'P', 'O', 'Y'], ['P', 'R', 'O', 'Y']]) := by
  refine (loopRun_none' (honest ['P', 'R', 'O', 'Y']) 7 S0 []).trans ?_
  refine (loopRun_step ['P', 'R', 'O', 'Y'] 7 6 ['B', 'G', 'O', 'R'] S0 [] 1 1 E20 ['B', 'O', 'Y', 'P'] [['B', 'G', 'O', 'R']] rfl ((calc_eq_fastP ['P', 'R', 'O', 'Y'] ['B', 'G', 'O', 'R'] (by decide) (by decide)).trans (by decide)) (by decide) pe20 rfl nx20 (by decide) (by decide) (by decide)).trans ?_
  refine Eq.trans (step_lift ['B', 'G', 'O', 'R'] (?_ : loopRun (honest ['P', 'R', 'O', 'Y']) 6 (some ['B', 'O', 'Y', 'P']) E20 [['B', 'G', 'O', 'R']] = (RunResult.solved ['P', 'R', 'O', 'Y'] 4, [['B', 'O', 'Y', 'P'], ['G', 'P', 'O', 'Y'], ['P', 'R', 'O', 'Y']]))) rfl
  refine (loopRun_step ['P', 'R', 'O', 'Y'] 6 5 ['B', 'O', 'Y', 'P'] E20 [['B', 'G', 'O', 'R']] 3 0 E114 ['G', 'P', 'O', 'Y'] [['B', 'G', 'O', 'R'], ['B', 'O', 'Y', 'P']] rfl ((calc_eq_fastP ['P', 'R', 'O', 'Y'] ['B', 'O', 'Y', 'P'] (by decide) (by decide)).trans (by decide)) (by decide) pe114 rfl nx114 (by decide) (by decide) (by decide)).trans ?_
  refine Eq.trans (step_lift ['B', 'O', 'Y', 'P'] (?_ : loopRun (honest ['P', 'R', 'O', 'Y']) 5 (some ['G', 'P', 'O', 'Y']) E114 [['B', 'G', 'O', 'R'], ['B', 'O', 'Y', 'P']] = (RunResult.solved ['P', 'R', 'O', 'Y'] 4, [['G', 'P', 'O', 'Y'], ['P', 'R', 'O', 'Y']]))) rfl
  refine (loopRun_step ['P', 'R', 'O', 'Y'] 5 4 ['G', 'P', 'O', 'Y'] E114 [['B', 'G', 'O', 'R'], ['B', 'O', 'Y', 'P']] 1 2 [['P', 'R', 'O', 'Y']] ['P', 'R', 'O', 'Y'] [['B', 'G', 'O', 'R'], ['B', 'O', 'Y', 'P'], ['G', 'P', 'O', 'Y']] rfl ((calc_eq_fastP ['P', 'R', 'O', 'Y'] ['G', 'P', 'O', 'Y'] (by decide) (by decide)).trans (by decide)) (by decide) pe343 rfl (findNextGuess_singleton ['P', 'R', 'O', 'Y'] [['B', 'G', 'O', 'R'], ['B', 'O', 'Y', 'P'], ['G', 'P', 'O', 'Y']]) (by decide) (by decide) (by decide)).trans ?_
  refine Eq.trans (step_lift ['G', 'P', 'O', 'Y'] (?_ : loopRun (honest ['P', 'R', 'O', 'Y']) 4 (some ['P', 'R', 'O', 'Y']) [['P', 'R', 'O', 'Y']] [['B', 'G', 'O', 'R'], ['B', 'O', 'Y', 'P'], ['G', 'P', 'O', 'Y']] = (RunResult.solved ['P', 'R', 'O', 'Y'] 4, [['P', 'R', 'O', 'Y']]))) rfl
  exact loopRun_last ['P', 'R', 'O', 'Y'] 4 3 [['P', 'R', 'O', 'Y']] [['B', 'G', 'O', 'R'], ['B', 'O', 'Y', 'P'], ['G', 'P', 'O', 'Y']] rfl rfl (by decide)

lemma rs345 : loopRun (honest ['P', 'R', 'Y', 'B']) 7 none S0 [] =
    (RunResult.solved ['P', 'R', 'Y', 'B'] 4, [['B', 'G', 'O', 'R'], ['G', 'Y', 'R', 'P'], ['R', 'B', 'P', 'Y'], ['P', 'R', 'Y', 'B']]) := by
  refine (loopRun_none' (honest ['P', 'R', 'Y', 'B']) 7 S0 []).trans ?_
  refine (loopRun_step ['P', 'R', 'Y', 'B'] 7 6 ['B', 'G', 'O', 'R'] S0 [] 2 0 E72 ['G', 'Y', 'R', 'P'] [['B', 'G', 'O', 'R']] rfl ((calc_eq_fastP ['P', 'R', 'Y', 'B'] ['B', 'G', 'O', 'R'] (by decide) (by decide)).trans (by decide)) (by decide) pe72 rfl nx72 (by decide) (by decide) (by decide)).trans ?_
  refine Eq.trans (step_lift ['B', 'G', 'O', 'R'] (?_ : loopRun (honest ['P', 'R', 'Y', 'B']) 6 (some ['G', 'Y', 'R', 'P']) E72 [['B', 'G', 'O', 'R']] = (RunResult.solved ['P', 'R', 'Y', 'B'] 4, [['G', 'Y', 'R', 'P'], ['R', 'B', 'P', 'Y'], ['P', 'R', 'Y', 'B']]))) rfl
  refine (loopRun_step ['P', 'R', 'Y', 'B'] 6 5 ['G', 'Y', 'R', 'P'] E72 [['B', 'G', 'O', 'R']] 3 0 E158 ['R', 'B', 'P', 'Y'] [['B', 'G', 'O', 'R'], ['G', 'Y', 'R', 'P']] rfl ((calc_eq_fastP ['P', 'R', 'Y', 'B'] ['G', 'Y', 'R', 'P'] (by decide) (by decide)).trans (by decide)) (by decide) pe158 rfl nx158 (by decide) (by decide) (by decide)).trans ?_
  refine Eq.trans (step_lift ['G', 'Y', 'R', 'P'] (?_ : loopRun (honest ['P', 'R', 'Y', 'B']) 5 (some ['R', 'B', 'P', 'Y']) E158 [['B', 'G', 'O', 'R'], ['G', 'Y', 'R', 'P']] = (RunResult.solved ['P', 'R', 'Y', 'B'] 4, [['R', 'B', 'P', 'Y'], ['P', 'R', 'Y', 'B']]))) rfl
  refine (loopRun_step ['P', 'R', 'Y', 'B'] 5 4 ['R', 'B', 'P', 'Y'] E158 [['B', 'G', 'O', 'R'], ['G', 'Y', 'R', 'P']] 4 0 [['P', 'R', 'Y', 'B']] ['P', 'R', 'Y', 'B'] [['B', 'G', 'O', 'R'], ['G', 'Y', 'R', 'P'], ['R', 'B', 'P', 'Y']] rfl ((calc_eq_fastP ['P', 'R', 'Y', 'B'] ['R', 'B', 'P', 'Y'] (by decide) (by decide)).trans (by decide)) (by decide) pe344 rfl (findNextGuess_singleton ['P', 'R', 'Y', 'B'] [['B', 'G', 'O', 'R'], ['G', 'Y', 'R', 'P'], ['R', 'B', 'P', 'Y']]) (by decide) (by decide) (by decide)).trans ?_
  refine Eq.trans (step_lift ['R', 'B', 'P', 'Y'] (?_ : loopRun (honest ['P', 'R', 'Y', 'B']) 4 (some ['P', 'R', 'Y', 'B']) [['P', 'R', 'Y', 'B']] [['B', 'G', 'O', 'R'], ['G', 'Y', 'R', 'P'], ['R', 'B', 'P', 'Y']] = (RunResult.solved ['P', 'R', 'Y', 'B'] 4, [['P', 'R', 'Y', 'B']]))) rfl
  exact loopRun_last ['P', 'R', 'Y', 'B'] 4 3 [['P', 'R', 'Y', 'B']] [['B', 'G', 'O', 'R'], ['G', 'Y', 'R', 'P'], ['R', 'B', 'P', 'Y']] rfl rfl (by decide)

lemma rs346 : loopRun (honest ['P', 'R', 'Y', 'G']) 7 none S0 [] =
    (RunResult.solved ['P', 'R', 'Y', 'G'] 5, [['B', 'G', 'O', 'R'], ['G', 'Y', 'R', 'P'], ['R', 'P', 'G', 'Y'], ['Y', 'R', 'P', 'G'], ['P', 'R', 'Y', 'G']]) := by
  refine (loopRun_none' (honest ['P', 'R', 'Y', 'G']) 7 S0 []).trans ?_
  refine (loopRun_step ['P', 'R', 'Y', 'G'] 7 6 ['B', 'G', 'O', 'R'] S0 [] 2 0 E72 ['G', 'Y', 'R', 'P'] [['B', 'G', 'O', 'R']] rfl ((calc_eq_fastP ['P', 'R', 'Y', 'G'] ['B', 'G', 'O', 'R'] (by decide) (by decide)).trans (by decide)) (by decide) pe72 rfl nx72 (by decide) (by decide) (by decide)).trans ?_
  refine Eq.trans (step_lift ['B', 'G', 'O', 'R'] (?_ : loopRun (honest ['P', 'R', 'Y', 'G']) 6 (some ['G', 'Y', 'R', 'P']) E72 [['B', 'G', 'O', 'R']] = (RunResult.solved ['P', 'R', 'Y', 'G'] 5, [['G', 'Y', 'R', 'P'], ['R', 'P', 'G', 'Y'], ['Y', 'R', 'P', 'G'], ['P', 'R', 'Y', 'G']]))) rfl
  refine (loopRun_step ['P', 'R', 'Y', 'G'] 6 5 ['G', 'Y', 'R', 'P'] E72 [['B', 'G', 'O', 'R']] 4 0 E233 ['R', 'P', 'G', 'Y'] [['B', 'G', 'O', 'R'], ['G', 'Y', 'R', 'P']] rfl ((calc_eq_fastP ['P', 'R', 'Y', 'G'] ['G', 'Y', 'R', 'P'] (by decide) (by decide)).trans (by decide)) (by decide) pe233 rfl nx233 (by decide) (by decide) (by decide)).trans ?_
  refine Eq.trans (step_lift ['G', 'Y', 'R', 'P'] (?_ : loopRun (honest ['P', 'R', 'Y', 'G']) 5 (some ['R', 'P', 'G', 'Y']) E233 [['B', 'G', 'O', 'R'], ['G', 'Y', 'R', 'P']] = (RunResult.solved ['P', 'R', 'Y', 'G'] 5, [['R', 'P', 'G', 'Y'], ['Y', 'R', 'P', 'G'], ['P', 'R', 'Y', 'G']]))) rfl
  refine (loopRun_step ['P', 'R', 'Y', 'G'] 5 4 ['R', 'P', 'G', 'Y'] E233 [['B', 'G', 'O', 'R'], ['G', 'Y', 'R', 'P']] 4 0 E285 ['Y', 'R', 'P', 'G'] [['B', 'G', 'O', 'R'], ['G', 'Y', 'R', 'P'], ['R', 'P', 'G', 'Y']] rfl ((calc_eq_fastP ['P', 'R', 'Y', 'G'] ['R', 'P', 'G', 'Y'] (by decide) (by decide)).trans (by decide)) (by decide) pe285 rfl nx285 (by decide) (by decide) (by decide)).trans ?_
  refine Eq.trans (step_lift ['R', 'P', 'G', 'Y'] (?_ : loopRun (honest ['P', 'R', 'Y', 'G']) 4 (some ['Y', 'R', 'P', 'G']) E285 [['B', 'G', 'O', 'R'], ['G', 'Y', 'R', 'P'], ['R', 'P', 'G', 'Y']] = (RunResult.solved ['P', 'R', 'Y', 'G'] 5, [['Y', 'R', 'P', 'G'], ['P', 'R', 'Y', 'G']]))) rfl
  refine (loopRun_step ['P', 'R', 'Y', 'G'] 4 3 ['Y', 'R', 'P', 'G'] E285 [['B', 'G', 'O', 'R'], ['G', 'Y', 'R', 'P'], ['R', 'P', 'G', 'Y']] 2 2 [['P', 'R', 'Y', 'G']] ['P', 'R', 'Y', 'G'] [['B', 'G', 'O', 'R'], ['G', 'Y', 'R', 'P'], ['R', 'P', 'G', 'Y'], ['Y', 'R', 'P', 'G']] rfl ((calc_eq_fastP ['P', 'R', 'Y', 'G'] ['Y', 'R', 'P', 'G'] (by decide) (by decide)).trans (by decide)) (by decide) pe345 rfl (findNextGuess_singleton ['P', 'R', 'Y', 'G'] [['B', 'G', 'O', 'R'], ['G', 'Y', 'R', 'P'], ['R', 'P', 'G', 'Y'], ['Y', 'R', 'P', 'G']]) (by decide) (by decide) (by decide)).trans ?_
  refine Eq.trans (step_lift ['Y', 'R', 'P', 'G'] (?_ : loopRun (honest ['P', 'R', 'Y', 'G']) 3 (some ['P', 'R', 'Y', 'G']) [['P', 'R', 'Y', 'G']] [['B', 'G', 'O', 'R'], ['G', 'Y', 'R', 'P'], ['R', 'P', 'G', 'Y'], ['Y', 'R', 'P', 'G']] = (RunResult.solved ['P', 'R', 'Y', 'G'] 5, [['P', 'R', 'Y', 'G']]))) rfl
  exact loopRun_last ['P', 'R', 'Y', 'G'] 3 2 [['P', 'R', 'Y', 'G']] [['B', 'G', 'O', 'R'], ['G', 'Y', 'R', 'P'], ['R', 'P', 'G', 'Y'], ['Y', 'R', 'P', 'G']] rfl rfl (by decide)

lemma rs347 : loopRun (honest ['P', 'R', 'Y', 'O']) 7 none S0 [] =
    (RunResult.solved ['P', 'R', 'Y', 'O'] 5, [['B', 'G', 'O', 'R'], ['G', 'Y', 'R', 'P'], ['R', 'B', 'P', 'Y'], ['Y', 'P', 'B', 'G'], ['P', 'R', 'Y', 'O']]) := by
  refine (loopRun_none' (honest ['P', 'R', 'Y', 'O']) 7 S0 []).trans ?_
  refine (loopRun_step ['P', 'R', 'Y', 'O'] 7 6 ['B', 'G', 'O', 'R'] S0 [] 2 0 E72 ['G', 'Y', 'R', 'P'] [['B', 'G', 'O', 'R']] rfl ((calc_eq_fastP ['P', 'R', 'Y', 'O'] ['B', 'G', 'O', 'R'] (by decide) (by decide)).trans (by decide)) (by decide) pe72 rfl nx72 (by decide) (by decide) (by decide)).trans ?_
  refine Eq.trans (step_lift ['B', 'G', 'O', 'R'] (?_ : loopRun (honest ['P', 'R', 'Y', 'O']) 6 (some ['G', 'Y', 'R', 'P']) E72 [['B', 'G', 'O', 'R']] = (RunResult.solved ['P', 'R', 'Y', 'O'] 5, [['G', 'Y', 'R', 'P'], ['R', 'B', 'P', 'Y'], ['Y', 'P', 'B', 'G'], ['P', 'R', 'Y', 'O']]))) rfl
  refine (loopRun_step ['P', 'R', 'Y', 'O'] 6 5 ['G', 'Y', 'R', 'P'] E72 [['B', 'G', 'O', 'R']] 3 0 E158 ['R', 'B', 'P', 'Y'] [['B', 'G', 'O', 'R'], ['G', 'Y', 'R', 'P']] rfl ((calc_eq_fastP ['P', 'R', 'Y', 'O'] ['G', 'Y', 'R', 'P'] (by decide) (by decide)).trans (by decide)) (by decide) pe158 rfl nx158 (by decide) (by decide) (by decide)).trans ?_
  refine Eq.trans (step_lift ['G', 'Y', 'R', 'P'] (?_ : loopRun (honest ['P', 'R', 'Y', 'O']) 5 (some ['R', 'B', 'P', 'Y']) E158 [['B', 'G', 'O', 'R'], ['G', 'Y', 'R', 'P']] = (RunResult.solved ['P', 'R', 'Y', 'O'] 5, [['R', 'B', 'P', 'Y'], ['Y', 'P', 'B', 'G'], ['P', 'R', 'Y', 'O']]))) rfl
  refine (loopRun_step ['P', 'R', 'Y', 'O'] 5 4 ['R', 'B', 'P', 'Y'] E158 [['B', 'G', 'O', 'R'], ['G', 'Y', 'R', 'P']] 3 0 E287 ['Y', 'P', 'B', 'G'] [['B', 'G', 'O', 'R'], ['G', 'Y', 'R', 'P'], ['R', 'B', 'P', 'Y']] rfl ((calc_eq_fastP ['P', 'R', 'Y', 'O'] ['R', 'B', 'P', 'Y'] (by decide) (by decide)).trans (by decide)) (by decide) pe287 rfl nx287 (by decide) (by decide) (by decide)).trans ?_
  refine Eq.trans (step_lift ['R', 'B', 'P', 'Y'] (?_ : loopRun (honest ['P', 'R', 'Y', 'O']) 4 (some ['Y', 'P', 'B', 'G']) E287 [['B', 'G', 'O', 'R'], ['G', 'Y', 'R', 'P'], ['R', 'B', 'P', 'Y']] = (RunResult.solved ['P', 'R', 'Y', 'O'] 5, [['Y', 'P', 'B', 'G'], ['P', 'R', 'Y', 'O']]))) rfl
  refine (loopRun_step ['P', 'R', 'Y', 'O'] 4 3 ['Y', 'P', 'B', 'G'] E287 [['B', 'G', 'O', 'R'], ['G', 'Y', 'R', 'P'], ['R', 'B', 'P', 'Y']] 2 0 [['P', 'R', 'Y', 'O']] ['P', 'R', 'Y', 'O'] [['B', 'G', 'O', 'R'], ['G', 'Y', 'R', 'P'], ['R', 'B', 'P', 'Y'], ['Y', 'P', 'B', 'G']] rfl ((calc_eq_fastP ['P', 'R', 'Y', 'O'] ['Y', 'P', 'B', 'G'] (by decide) (by decide)).trans (by decide)) (by decide) pe346 rfl (findNextGuess_singleton ['P', 'R', 'Y', 'O'] [['B', 'G', 'O', 'R'], ['G', 'Y', 'R', 'P'], ['R', 'B', 'P', 'Y'], ['Y', 'P', 'B', 'G']]) (by decide) (by decide) (by decide)).trans ?_
  refine Eq.trans (step_lift ['Y', 'P', 'B', 'G'] (?_ : loopRun (honest ['P', 'R', 'Y', 'O']) 3 (some ['P', 'R', 'Y', 'O']) [['P', 'R', 'Y', 'O']] [['B', 'G', 'O', 'R'], ['G', 'Y', 'R', 'P'], ['R', 'B', 'P', 'Y'], ['Y', 'P', 'B', 'G']] = (RunResult.solved ['P', 'R', 'Y', 'O'] 5, [['P', 'R', 'Y', 'O']]))) rfl
  exact loopRun_last ['P', 'R', 'Y', 'O'] 3 2 [['P', 'R', 'Y', 'O']] [['B', 'G', 'O', 'R'], ['G', 'Y', 'R', 'P'], ['R', 'B', 'P', 'Y'], ['Y', 'P', 'B', 'G']] rfl rfl (by decide)

lemma rs348 : loopRun (honest ['P', 'Y', 'B', 'G']) 7 none S0 [] =
    (RunResult.solved ['P', 'Y', 'B', 'G'] 4, [['B', 'G', 'O', 'R'], ['G', 'Y', 'R', 'P'], ['G', 'B', 'P', 'Y'], ['P', 'Y', 'B', 'G']]) := by
  refine (loopRun_none' (honest ['P', 'Y', 'B', 'G']) 7 S0 []).trans ?_
  refine (loopRun_step ['P', 'Y', 'B', 'G'] 7 6 ['B', 'G', 'O', 'R'] S0 [] 2 0 E72 ['G', 'Y', 'R', 'P'] [['B', 'G', 'O', 'R']] rfl ((calc_eq_fastP ['P', 'Y', 'B', 'G'] ['B', 'G', 'O', 'R'] (by decide) (by decide)).trans (by decide)) (by decide) pe72 rfl nx72 (by decide) (by decide) (by decide)).trans ?_
  refine Eq.trans (step_lift ['B', 'G', 'O', 'R'] (?_ : loopRun (honest ['P', 'Y', 'B', 'G']) 6 (some ['G', 'Y', 'R', 'P']) E72 [['B', 'G', 'O', 'R']] = (RunResult.solved ['P', 'Y', 'B', 'G'] 4, [['G', 'Y', 'R', 'P'], ['G', 'B', 'P', 'Y'], ['P', 'Y', 'B', 'G']]))) rfl
  refine (loopRun_step ['P', 'Y', 'B', 'G'] 6 5 ['G', 'Y', 'R', 'P'] E72 [['B', 'G', 'O', 'R']] 2 1 E78 ['G', 'B', 'P', 'Y'] [['B', 'G', 'O', 'R'], ['G', 'Y', 'R', 'P']] rfl ((calc_eq_fastP ['P', 'Y', 'B', 'G'] ['G', 'Y', 'R', 'P'] (by decide) (by decide)).trans (by decide)) (by decide) pe78 rfl nx78 (by decide) (by decide) (by decide)).trans ?_
  refine Eq.trans (step_lift ['G', 'Y', 'R', 'P'] (?_ : loopRun (honest ['P', 'Y', 'B', 'G']) 5 (some ['G', 'B', 'P', 'Y']) E78 [['B', 'G', 'O', 'R'], ['G', 'Y', 'R', 'P']] = (RunResult.solved ['P', 'Y', 'B', 'G'] 4, [['G', 'B', 'P', 'Y'], ['P', 'Y', 'B', 'G']]))) rfl
  refine (loopRun_step ['P', 'Y', 'B', 'G'] 5 4 ['G', 'B', 'P', 'Y'] E78 [['B', 'G', 'O', 'R'], ['G', 'Y', 'R', 'P']] 4 0 E347 ['P', 'Y', 'B', 'G'] [['B', 'G', 'O', 'R'], ['G', 'Y', 'R', 'P'], ['G', 'B', 'P', 'Y']] rfl ((calc_eq_fastP ['P', 'Y', 'B', 'G'] ['G', 'B', 'P', 'Y'] (by decide) (by decide)).trans (by decide)) (by decide) pe347 rfl nx347 (by decide) (by decide) (by decide)).trans ?_
  refine Eq.trans (step_lift ['G', 'B', 'P', 'Y'] (?_ : loopRun (honest ['P', 'Y', 'B', 'G']) 4 (some ['P', 'Y', 'B', 'G']) E347 [['B', 'G', 'O', 'R'], ['G', 'Y', 'R', 'P'], ['G', 'B', 'P', 'Y']] = (RunResult.solved ['P', 'Y', 'B', 'G'] 4, [['P', 'Y', 'B', 'G']]))) rfl
  exact loopRun_last ['P', 'Y', 'B', 'G'] 4 3 E347 [['B', 'G', 'O', 'R'], ['G', 'Y', 'R', 'P'], ['G', 'B', 'P', 'Y']] rfl rfl (by decide)

lemma rs349 : loopRun (honest ['P', 'Y', 'B', 'O']) 7 none S0 [] =
    (RunResult.solved ['P', 'Y', 'B', 'O'] 4, [['B', 'G', 'O', 'R'], ['G', 'Y', 'R', 'P'], ['O', 'B', 'Y', 'P'], ['P', 'Y', 'B', 'O']]) := by
  refine (loopRun_none' (honest ['P', 'Y', 'B', 'O']) 7 S0 []).trans ?_
  refine (loopRun_step ['P', 'Y', 'B', 'O'] 7 6 ['B', 'G', 'O', 'R'] S0 [] 2 0 E72 ['G', 'Y', 'R', 'P'] [['B', 'G', 'O', 'R']] rfl ((calc_eq_fastP ['P', 'Y', 'B', 'O'] ['B', 'G', 'O', 'R'] (by decide) (by decide)).trans (by decide)) (by decide) pe72 rfl nx72 (by decide) (by decide) (by decide)).trans ?_
  refine Eq.trans (step_lift ['B', 'G', 'O', 'R'] (?_ : loopRun (honest ['P', 'Y', 'B', 'O']) 6 (some ['G', 'Y', 'R', 'P']) E72 [['B', 'G', 'O', 'R']] = (RunResult.solved ['P', 'Y', 'B', 'O'] 4, [['G', 'Y', 'R', 'P'], ['O', 'B', 'Y', 'P'], ['P', 'Y', 'B', 'O']]))) rfl
  refine (loopRun_step ['P', 'Y', 'B', 'O'] 6 5 ['G', 'Y', 'R', 'P'] E72 [['B', 'G', 'O', 'R']] 1 1 E131 ['O', 'B', 'Y', 'P'] [['B', 'G', 'O', 'R'], ['G', 'Y', 'R', 'P']] rfl ((calc_eq_fastP ['P', 'Y', 'B', 'O'] ['G', 'Y', 'R', 'P'] (by decide) (by decide)).trans (by decide)) (by decide) pe131 rfl nx131 (by decide) (by decide) (by decide)).trans ?_
  refine Eq.trans (step_lift ['G', 'Y', 'R', 'P'] (?_ : loopRun (honest ['P', 'Y', 'B', 'O']) 5 (some ['O', 'B', 'Y', 'P']) E131 [['B', 'G', 'O', 'R'], ['G', 'Y', 'R', 'P']] = (RunResult.solved ['P', 'Y', 'B', 'O'] 4, [['O', 'B', 'Y', 'P'], ['P', 'Y', 'B', 'O']]))) rfl
  refine (loopRun_step ['P', 'Y', 'B', 'O'] 5 4 ['O', 'B', 'Y', 'P'] E131 [['B', 'G', 'O', 'R'], ['G', 'Y', 'R', 'P']] 4 0 [['P', 'Y', 'B', 'O']] ['P', 'Y', 'B', 'O'] [['B', 'G', 'O', 'R'], ['G', 'Y', 'R', 'P'], ['O', 'B', 'Y', 'P']] rfl ((calc_eq_fastP ['P', 'Y', 'B', 'O'] ['O', 'B', 'Y', 'P'] (by decide) (by decide)).trans (by decide)) (by decide) pe348 rfl (findNextGuess_singleton ['P', 'Y', 'B', 'O'] [['B', 'G', 'O', 'R'], ['G', 'Y', 'R', 'P'], ['O', 'B', 'Y', 'P']]) (by decide) (by decide) (by decide)).trans ?_
  refine Eq.trans (step_lift ['O', 'B', 'Y', 'P'] (?_ : loopRun (honest ['P', 'Y', 'B', 'O']) 4 (some ['P', 'Y', 'B', 'O']) [['P', 'Y', 'B', 'O']] [['B', 'G', 'O', 'R'], ['G', 'Y', 'R', 'P'], ['O', 'B', 'Y', 'P']] = (RunResult.solved ['P', 'Y', 'B', 'O'] 4, [['P', 'Y', 'B', 'O']]))) rfl
  exact loopRun_last ['P', 'Y', 'B', 'O'] 4 3 [['P', 'Y', 'B', 'O']] [['B', 'G', 'O', 'R'], ['G', 'Y', 'R', 'P'], ['O', 'B', 'Y', 'P']] rfl rfl (by decide)

lemma rs350 : loopRun (honest ['P', 'Y', 'B', 'R']) 7 none S0 [] =
    (RunResult.solved ['P', 'Y', 'B', 'R'] 5, [['B', 'G', 'O', 'R'], ['B', 'O', 'Y', 'P'], ['G', 'P', 'O', 'Y'], ['Y', 'B', 'P', 'R'], ['P', 'Y', 'B', 'R']]) := by
  refine (loopRun_none' (honest ['P', 'Y', 'B', 'R']) 7 S0 []).trans ?_
  refine (loopRun_step ['P', 'Y', 'B', 'R'] 7 6 ['B', 'G', 'O', 'R'] S0 [] 1 1 E20 ['B', 'O', 'Y', 'P'] [['B', 'G', 'O', 'R']] rfl ((calc_eq_fastP ['P', 'Y', 'B', 'R'] ['B', 'G', 'O', 'R'] (by decide) (by decide)).trans (by decide)) (by decide) pe20 rfl nx20 (by decide) (by decide) (by decide)).trans ?_
  refine Eq.trans (step_lift ['B', 'G', 'O', 'R'] (?_ : loopRun (honest ['P', 'Y', 'B', 'R']) 6 (some ['B', 'O', 'Y', 'P']) E20 [['B', 'G', 'O', 'R']] = (RunResult.solved ['P', 'Y', 'B', 'R'] 5, [['B', 'O', 'Y', 'P'], ['G', 'P', 'O', 'Y'], ['Y', 'B', 'P', 'R'], ['P', 'Y', 'B', 'R']]))) rfl
  refine (loopRun_step ['P', 'Y', 'B', 'R'] 6 5 ['B', 'O', 'Y', 'P'] E20 [['B', 'G', 'O', 'R']] 3 0 E114 ['G', 'P', 'O', 'Y'] [['B', 'G', 'O', 'R'], ['B', 'O', 'Y', 'P']] rfl ((calc_eq_fastP ['P', 'Y', 'B', 'R'] ['B', 'O', 'Y', 'P'] (by decide) (by decide)).trans (by decide)) (by decide) pe114 rfl nx114 (by decide) (by decide) (by decide)).trans ?_
  refine Eq.trans (step_lift ['B', 'O', 'Y', 'P'] (?_ : loopRun (honest ['P', 'Y', 'B', 'R']) 5 (some ['G', 'P', 'O', 'Y']) E114 [['B', 'G', 'O', 'R'], ['B', 'O', 'Y', 'P']] = (RunResult.solved ['P', 'Y', 'B', 'R'] 5, [['G', 'P', 'O', 'Y'], ['Y', 'B', 'P', 'R'], ['P', 'Y', 'B', 'R']]))) rfl
  refine (loopRun_step ['P', 'Y', 'B', 'R'] 5 4 ['G', 'P', 'O', 'Y'] E114 [['B', 'G', 'O', 'R'], ['B', 'O', 'Y', 'P']] 2 0 E250 ['Y', 'B', 'P', 'R'] [['B', 'G', 'O', 'R'], ['B', 'O', 'Y', 'P'], ['G', 'P', 'O', 'Y']] rfl ((calc_eq_fastP ['P', 'Y', 'B', 'R'] ['G', 'P', 'O', 'Y'] (by decide) (by decide)).trans (by decide)) (by decide) pe250 rfl nx250 (by decide) (by decide) (by decide)).trans ?_
  refine Eq.trans (step_lift ['G', 'P', 'O', 'Y'] (?_ : loopRun (honest ['P', 'Y', 'B', 'R']) 4 (some ['Y', 'B', 'P', 'R']) E250 [['B', 'G', 'O', 'R'], ['B', 'O', 'Y', 'P'], ['G', 'P', 'O', 'Y']] = (RunResult.solved ['P', 'Y', 'B', 'R'] 5, [['Y', 'B', 'P', 'R'], ['P', 'Y', 'B', 'R']]))) rfl
  refine (loopRun_step ['P', 'Y', 'B', 'R'] 4 3 ['Y', 'B', 'P', 'R'] E250 [['B', 'G', 'O', 'R'], ['B', 'O', 'Y', 'P'], ['G', 'P', 'O', 'Y']] 3 1 [['P', 'Y', 'B', 'R']] ['P', 'Y', 'B', 'R'] [['B', 'G', 'O', 'R'], ['B', 'O', 'Y', 'P'], ['G', 'P', 'O', 'Y'], ['Y', 'B', 'P', 'R']] rfl ((calc_eq_fastP ['P', 'Y', 'B', 'R'] ['Y', 'B', 'P', 'R'] (by decide) (by decide)).trans (by decide)) (by decide) pe349 rfl (findNextGuess_singleton ['P', 'Y', 'B', 'R'] [['B', 'G', 'O', 'R'], ['B', 'O', 'Y', 'P'], ['G', 'P', 'O', 'Y'], ['Y', 'B', 'P', 'R']]) (by decide) (by decide) (by decide)).trans ?_
  refine Eq.trans (step_lift ['Y', 'B', 'P', 'R'] (?_ : loopRun (honest ['P', 'Y', 'B', 'R']) 3 (some ['P', 'Y', 'B', 'R']) [['P', 'Y', 'B', 'R']] [['B', 'G', 'O', 'R'], ['B', 'O', 'Y', 'P'], ['G', 'P', 'O', 'Y'], ['Y', 'B', 'P', 'R']] = (RunResult.solved ['P', 'Y', 'B', 'R'] 5, [['P', 'Y', 'B', 'R']]))) rfl
  exact loopRun_last ['P', 'Y', 'B', 'R'] 3 2 [['P', 'Y', 'B', 'R']] [['B', 'G', 'O', 'R'], ['B', 'O', 'Y', 'P'], ['G', 'P', 'O', 'Y'], ['Y', 'B', 'P', 'R']] rfl rfl (by decide)

lemma rs351 : loopRun (honest ['P', 'Y', 'G', 'B']) 7 none S0 [] =
    (RunResult.solved ['P', 'Y', 'G', 'B'] 5, [['B', 'G', 'O', 'R'], ['G', 'Y', 'R', 'P'], ['G', 'B', 'P', 'Y'], ['P', 'Y', 'B', 'G'], ['P', 'Y', 'G', 'B']]) := by
  refine (loopRun_none' (honest ['P', 'Y', 'G', 'B']) 7 S0 []).trans ?_
  refine (loopRun_step ['P', 'Y', 'G', 'B'] 7 6 ['B', 'G', 'O', 'R'] S0 [] 2 0 E72 ['G', 'Y', 'R', 'P'] [['B', 'G', 'O', 'R']] rfl ((calc_eq_fastP ['P', 'Y', 'G', 'B'] ['B', 'G', 'O', 'R'] (by decide) (by decide)).trans (by decide)) (by decide) pe72 rfl nx72 (by decide) (by decide) (by decide)).trans ?_
  refine Eq.trans (step_lift ['B', 'G', 'O', 'R'] (?_ : loopRun (honest ['P', 'Y', 'G', 'B']) 6 (some ['G', 'Y', 'R', 'P']) E72 [['B', 'G', 'O', 'R']] = (RunResult.solved ['P', 'Y', 'G', 'B'] 5, [['G', 'Y', 'R', 'P'], ['G', 'B', 'P', 'Y'], ['P', 'Y', 'B', 'G'], ['P', 'Y', 'G', 'B']]))) rfl
  refine (loopRun_step ['P', 'Y', 'G', 'B'] 6 5 ['G', 'Y', 'R', 'P'] E72 [['B', 'G', 'O', 'R']] 2 1 E78 ['G', 'B', 'P', 'Y'] [['B', 'G', 'O', 'R'], ['G', 'Y', 'R', 'P']] rfl ((calc_eq_fastP ['P', 'Y', 'G', 'B'] ['G', 'Y', 'R', 'P'] (by decide) (by decide)).trans (by decide)) (by decide) pe78 rfl nx78 (by decide) (by decide) (by decide)).trans ?_
  refine Eq.trans (step_lift ['G', 'Y', 'R', 'P'] (?_ : loopRun (honest ['P', 'Y', 'G', 'B']) 5 (some ['G', 'B', 'P', 'Y']) E78 [['B', 'G', 'O', 'R'], ['G', 'Y', 'R', 'P']] = (RunResult.solved ['P', 'Y', 'G', 'B'] 5, [['G', 'B', 'P', 'Y'], ['P', 'Y', 'B', 'G'], ['P', 'Y', 'G', 'B']]))) rfl
  refine (loopRun_step ['P', 'Y', 'G', 'B'] 5 4 ['G', 'B', 'P', 'Y'] E78 [['B', 'G', 'O', 'R'], ['G', 'Y', 'R', 'P']] 4 0 E347 ['P', 'Y', 'B', 'G'] [['B', 'G', 'O', 'R'], ['G', 'Y', 'R', 'P'], ['G', 'B', 'P', 'Y']] rfl ((calc_eq_fastP ['P', 'Y', 'G', 'B'] ['G', 'B', 'P', 'Y'] (by decide) (by decide)).trans (by decide)) (by decide) pe347 rfl nx347 (by decide) (by decide) (by decide)).trans ?_
  refine Eq.trans (step_lift ['G', 'B', 'P', 'Y'] (?_ : loopRun (honest ['P', 'Y', 'G', 'B']) 4 (some ['P', 'Y', 'B', 'G']) E347 [['B', 'G', 'O', 'R'], ['G', 'Y', 'R', 'P'], ['G', 'B', 'P', 'Y']] = (RunResult.solved ['P', 'Y', 'G', 'B'] 5, [['P', 'Y', 'B', 'G'], ['P', 'Y', 'G', 'B']]))) rfl
  refine (loopRun_step ['P', 'Y', 'G', 'B'] 4 3 ['P', 'Y', 'B', 'G'] E347 [['B', 'G', 'O', 'R'], ['G', 'Y', 'R', 'P'], ['G', 'B', 'P', 'Y']] 2 2 [['P', 'Y', 'G', 'B']] ['P', 'Y', 'G', 'B'] [['B', 'G', 'O', 'R'], ['G', 'Y', 'R', 'P'], ['G', 'B', 'P', 'Y'], ['P', 'Y', 'B', 'G']] rfl ((calc_eq_fastP ['P', 'Y', 'G', 'B'] ['P', 'Y', 'B', 'G'] (by decide) (by decide)).trans (by decide)) (by decide) pe350 rfl (findNextGuess_singleton ['P', 'Y', 'G', 'B'] [['B', 'G', 'O', 'R'], ['G', 'Y', 'R', 'P'], ['G', 'B', 'P', 'Y'], ['P', 'Y', 'B', 'G']]) (by decide) (by decide) (by decide)).trans ?_
  refine Eq.trans (step_lift ['P', 'Y', 'B', 'G'] (?_ : loopRun (honest ['P', 'Y', 'G', 'B']) 3 (some ['P', 'Y', 'G', 'B']) [['P', 'Y', 'G', 'B']] [['B', 'G', 'O', 'R'], ['G', 'Y', 'R', 'P'], ['G', 'B', 'P', 'Y'], ['P', 'Y', 'B', 'G']] = (RunResult.solved ['P', 'Y', 'G', 'B'] 5, [['P', 'Y', 'G', 'B']]))) rfl
  exact loopRun_last ['P', 'Y', 'G', 'B'] 3 2 [['P', 'Y', 'G', 'B']] [['B', 'G', 'O', 'R'], ['G', 'Y', 'R', 'P'], ['G', 'B', 'P', 'Y'], ['P', 'Y', 'B', 'G']] rfl rfl (by decide)

lemma rs352 : loopRun (honest ['P', 'Y', 'G', 'O']) 7 none S0 [] =
    (RunResult.solved ['P', 'Y', 'G', 'O'] 5, [['B', 'G', 'O', 'R'], ['G', 'Y', 'R', 'P'], ['G', 'B', 'P', 'Y'], ['Y', 'O', 'G', 'P'], ['P', 'Y', 'G', 'O']]) := by
  refine (loopRun_none' (honest ['P', 'Y', 'G', 'O']) 7 S0 []).trans ?_
  refine (loopRun_step ['P', 'Y', 'G', 'O'] 7 6 ['B', 'G', 'O', 'R'] S0 [] 2 0 E72 ['G', 'Y', 'R', 'P'] [['B', 'G', 'O', 'R']] rfl ((calc_eq_fastP ['P', 'Y', 'G', 'O'] ['B', 'G', 'O', 'R'] (by decide) (by decide)).trans (by decide)) (by decide) pe72 rfl nx72 (by decide) (by decide) (by decide)).trans ?_
  refine Eq.trans (step_lift ['B', 'G', 'O', 'R'] (?_ : loopRun (honest ['P', 'Y', 'G', 'O']) 6 (some ['G', 'Y', 'R', 'P']) E72 [['B', 'G', 'O', 'R']] = (RunResult.solved ['P', 'Y', 'G', 'O'] 5, [['G', 'Y', 'R', 'P'], ['G', 'B', 'P', 'Y'], ['Y', 'O', 'G', 'P'], ['P', 'Y', 'G', 'O']]))) rfl
  refine (loopRun_step ['P', 'Y', 'G', 'O'] 6 5 ['G', 'Y', 'R', 'P'] E72 [['B', 'G', 'O', 'R']] 2 1 E78 ['G', 'B', 'P', 'Y'] [['B', 'G', 'O', 'R'], ['G', 'Y', 'R', 'P']] rfl ((calc_eq_fastP ['P', 'Y', 'G', 'O'] ['G', 'Y', 'R', 'P'] (by decide) (by decide)).trans (by decide)) (by decide) pe78 rfl nx78 (by decide) (by decide) (by decide)).trans ?_
  refine Eq.trans (step_lift ['G', 'Y', 'R', 'P'] (?_ : loopRun (honest ['P', 'Y', 'G', 'O']) 5 (some ['G', 'B', 'P', 'Y']) E78 [['B', 'G', 'O', 'R'], ['G', 'Y', 'R', 'P']] = (RunResult.solved ['P', 'Y', 'G', 'O'] 5, [['G', 'B', 'P', 'Y'], ['Y', 'O', 'G', 'P'], ['P', 'Y', 'G', 'O']]))) rfl
  refine (loopRun_step ['P', 'Y', 'G', 'O'] 5 4 ['G', 'B', 'P', 'Y'] E78 [['B', 'G', 'O', 'R'], ['G', 'Y', 'R', 'P']] 3 0 E268 ['Y', 'O', 'G', 'P'] [['B', 'G', 'O', 'R'], ['G', 'Y', 'R', 'P'], ['G', 'B', 'P', 'Y']] rfl ((calc_eq_fastP ['P', 'Y', 'G', 'O'] ['G', 'B', 'P', 'Y'] (by decide) (by decide)).trans (by decide)) (by decide) pe268 rfl nx268 (by decide) (by decide) (by decide)).trans ?_
  refine Eq.trans (step_lift ['G', 'B', 'P', 'Y'] (?_ : loopRun (honest ['P', 'Y', 'G', 'O']) 4 (some ['Y', 'O', 'G', 'P']) E268 [['B', 'G', 'O', 'R'], ['G', 'Y', 'R', 'P'], ['G', 'B', 'P', 'Y']] = (RunResult.solved ['P', 'Y', 'G', 'O'] 5, [['Y', 'O', 'G', 'P'], ['P', 'Y', 'G', 'O']]))) rfl
  refine (loopRun_step ['P', 'Y', 'G', 'O'] 4 3 ['Y', 'O', 'G', 'P'] E268 [['B', 'G', 'O', 'R'], ['G', 'Y', 'R', 'P'], ['G', 'B', 'P', 'Y']] 3 1 [['P', 'Y', 'G', 'O']] ['P', 'Y', 'G', 'O'] [['B', 'G', 'O', 'R'], ['G', 'Y', 'R', 'P'], ['G', 'B', 'P', 'Y'], ['Y', 'O', 'G', 'P']] rfl ((calc_eq_fastP ['P', 'Y', 'G', 'O'] ['Y', 'O', 'G', 'P'] (by decide) (by decide)).trans (by decide)) (by decide) pe351 rfl (findNextGuess_singleton ['P', 'Y', 'G', 'O'] [['B', 'G', 'O', 'R'], ['G', 'Y', 'R', 'P'], ['G', 'B', 'P', 'Y'], ['Y', 'O', 'G', 'P']]) (by decide) (by decide) (by decide)).trans ?_
  refine Eq.trans (step_lift ['Y', 'O', 'G', 'P'] (?_ : loopRun (honest ['P', 'Y', 'G', 'O']) 3 (some ['P', 'Y', 'G', 'O']) [['P', 'Y', 'G', 'O']] [['B', 'G', 'O', 'R'], ['G', 'Y', 'R', 'P'], ['G', 'B', 'P', 'Y'], ['Y', 'O', 'G', 'P']] = (RunResult.solved ['P', 'Y', 'G', 'O'] 5, [['P', 'Y', 'G', 'O']]))) rfl
  exact loopRun_last ['P', 'Y', 'G', 'O'] 3 2 [['P', 'Y', 'G', 'O']] [['B', 'G', 'O', 'R'], ['G', 'Y', 'R', 'P'], ['G', 'B', 'P', 'Y'], ['Y', 'O', 'G', 'P']] rfl rfl (by decide)

lemma rs353 : loopRun (honest ['P', 'Y', 'G', 'R']) 7 none S0 [] =
    (RunResult.solved ['P', 'Y', 'G', 'R'] 4, [['B', 'G', 'O', 'R'], ['B', 'O', 'Y', 'P'], ['G', 'Y', 'P', 'R'], ['P', 'Y', 'G', 'R']]) := by
  refine (loopRun_none' (honest ['P', 'Y', 'G', 'R']) 7 S0 []).trans ?_
  refine (loopRun_step ['P', 'Y', 'G', 'R'] 7 6 ['B', 'G', 'O', 'R'] S0 [] 1 1 E20 ['B', 'O', 'Y', 'P'] [['B', 'G', 'O', 'R']] rfl ((calc_eq_fastP ['P', 'Y', 'G', 'R'] ['B', 'G', 'O', 'R'] (by decide) (by decide)).trans (by decide)) (by decide) pe20 rfl nx20 (by decide) (by decide) (by decide)).trans ?_
  refine Eq.trans (step_lift ['B', 'G', 'O', 'R'] (?_ : loopRun (honest ['P', 'Y', 'G', 'R']) 6 (some ['B', 'O', 'Y', 'P']) E20 [['B', 'G', 'O', 'R']] = (RunResult.solved ['P', 'Y', 'G', 'R'] 4, [['B', 'O', 'Y', 'P'], ['G', 'Y', 'P', 'R'], ['P', 'Y', 'G', 'R']]))) rfl
  refine (loopRun_step ['P', 'Y', 'G', 'R'] 6 5 ['B', 'O', 'Y', 'P'] E20 [['B', 'G', 'O', 'R']] 2 0 E109 ['G', 'Y', 'P', 'R'] [['B', 'G', 'O', 'R'], ['B', 'O', 'Y', 'P']] rfl ((calc_eq_fastP ['P', 'Y', 'G', 'R'] ['B', 'O', 'Y', 'P'] (by decide) (by decide)).trans (by decide)) (by decide) pe109 rfl nx109 (by decide) (by decide) (by decide)).trans ?_
  refine Eq.trans (step_lift ['B', 'O', 'Y', 'P'] (?_ : loopRun (honest ['P', 'Y', 'G', 'R']) 5 (some ['G', 'Y', 'P', 'R']) E109 [['B', 'G', 'O', 'R'], ['B', 'O', 'Y', 'P']] = (RunResult.solved ['P', 'Y', 'G', 'R'] 4, [['G', 'Y', 'P', 'R'], ['P', 'Y', 'G', 'R']]))) rfl
  refine (loopRun_step ['P', 'Y', 'G', 'R'] 5 4 ['G', 'Y', 'P', 'R'] E109 [['B', 'G', 'O', 'R'], ['B', 'O', 'Y', 'P']] 2 2 [['P', 'Y', 'G', 'R']] ['P', 'Y', 'G', 'R'] [['B', 'G', 'O', 'R'], ['B', 'O', 'Y', 'P'], ['G', 'Y', 'P', 'R']] rfl ((calc_eq_fastP ['P', 'Y', 'G', 'R'] ['G', 'Y', 'P', 'R'] (by decide) (by decide)).trans (by decide)) (by decide) pe352 rfl (findNextGuess_singleton ['P', 'Y', 'G', 'R'] [['B', 'G', 'O', 'R'], ['B', 'O', 'Y', 'P'], ['G', 'Y', 'P', 'R']]) (by decide) (by decide) (by decide)).trans ?_
  refine Eq.trans (step_lift ['G', 'Y', 'P', 'R'] (?_ : loopRun (honest ['P', 'Y', 'G', 'R']) 4 (some ['P', 'Y', 'G', 'R']) [['P', 'Y', 'G', 'R']] [['B', 'G', 'O', 'R'], ['B', 'O', 'Y', 'P'], ['G', 'Y', 'P', 'R']] = (RunResult.solved ['P', 'Y', 'G', 'R'] 4, [['P', 'Y', 'G', 'R']]))) rfl
  exact loopRun_last ['P', 'Y', 'G', 'R'] 4 3 [['P', 'Y', 'G', 'R']] [['B', 'G', 'O', 'R'], ['B', 'O', 'Y', 'P'], ['G', 'Y', 'P', 'R']] rfl rfl (by decide)

lemma rs354 : loopRun (honest ['P', 'Y', 'O', 'B']) 7 none S0 [] =
    (RunResult.solved ['P', 'Y', 'O', 'B'] 4, [['B', 'G', 'O', 'R'], ['B', 'O', 'Y', 'P'], ['Y', 'P', 'O', 'B'], ['P', 'Y', 'O', 'B']]) := by
  refine (loopRun_none' (honest ['P', 'Y', 'O', 'B']) 7 S0 []).trans ?_
  refine (loopRun_step ['P', 'Y', 'O', 'B'] 7 6 ['B', 'G', 'O', 'R'] S0 [] 1 1 E20 ['B', 'O', 'Y', 'P'] [['B', 'G', 'O', 'R']] rfl ((calc_eq_fastP ['P', 'Y', 'O', 'B'] ['B', 'G', 'O', 'R'] (by decide) (by decide)).trans (by decide)) (by decide) pe20 rfl nx20 (by decide) (by decide) (by decide)).trans ?_
  refine Eq.trans (step_lift ['B', 'G', 'O', 'R'] (?_ : loopRun (honest ['P', 'Y', 'O', 'B']) 6 (some ['B', 'O', 'Y', 'P']) E20 [['B', 'G', 'O', 'R']] = (RunResult.solved ['P', 'Y', 'O', 'B'] 4, [['B', 'O', 'Y', 'P'], ['Y', 'P', 'O', 'B'], ['P', 'Y', 'O', 'B']]))) rfl
  refine (loopRun_step ['P', 'Y', 'O', 'B'] 6 5 ['B', 'O', 'Y', 'P'] E20 [['B', 'G', 'O', 'R']] 4 0 E293 ['Y', 'P', 'O', 'B'] [['B', 'G', 'O', 'R'], ['B', 'O', 'Y', 'P']] rfl ((calc_eq_fastP ['P', 'Y', 'O', 'B'] ['B', 'O', 'Y', 'P'] (by decide) (by decide)).trans (by decide)) (by decide) pe293 rfl nx293 (by decide) (by decide) (by decide)).trans ?_
  refine Eq.trans (step_lift ['B', 'O', 'Y', 'P'] (?_ : loopRun (honest ['P', 'Y', 'O', 'B']) 5 (some ['Y', 'P', 'O', 'B']) E293 [['B', 'G', 'O', 'R'], ['B', 'O', 'Y', 'P']] = (RunResult.solved ['P', 'Y', 'O', 'B'] 4, [['Y', 'P', 'O', 'B'], ['P', 'Y', 'O', 'B']]))) rfl
  refine (loopRun_step ['P', 'Y', 'O', 'B'] 5 4 ['Y', 'P', 'O', 'B'] E293 [['B', 'G', 'O', 'R'], ['B', 'O', 'Y', 'P']] 2 2 [['P', 'Y', 'O', 'B']] ['P', 'Y', 'O', 'B'] [['B', 'G', 'O', 'R'], ['B', 'O', 'Y', 'P'], ['Y', 'P', 'O', 'B']] rfl ((calc_eq_fastP ['P', 'Y', 'O', 'B'] ['Y', 'P', 'O', 'B'] (by decide) (by decide)).trans (by decide)) (by decide) pe353 rfl (findNextGuess_singleton ['P', 'Y', 'O', 'B'] [['B', 'G', 'O', 'R'], ['B', 'O', 'Y', 'P'], ['Y', 'P', 'O', 'B']]) (by decide) (by decide) (by decide)).trans ?_
  refine Eq.trans (step_lift ['Y', 'P', 'O', 'B'] (?_ : loopRun (honest ['P', 'Y', 'O', 'B']) 4 (some ['P', 'Y', 'O', 'B']) [['P', 'Y', 'O', 'B']] [['B', 'G', 'O', 'R'], ['B', 'O', 'Y', 'P'], ['Y', 'P', 'O', 'B']] = (RunResult.solved ['P', 'Y', 'O', 'B'] 4, [['P', 'Y', 'O', 'B']]))) rfl
  exact loopRun_last ['P', 'Y', 'O', 'B'] 4 3 [['P', 'Y', 'O', 'B']] [['B', 'G', 'O', 'R'], ['B', 'O', 'Y', 'P'], ['Y', 'P', 'O', 'B']] rfl rfl (by decide)

lemma rs355 : loopRun (honest ['P', 'Y', 'O', 'G']) 7 none S0 [] =
    (RunResult.solved ['P', 'Y', 'O', 'G'] 5, [['B', 'G', 'O', 'R'], ['B', 'O', 'Y', 'P'], ['G', 'P', 'O', 'Y'], ['O', 'G', 'P', 'Y'], ['P', 'Y', 'O', 'G']]) := by
  refine (loopRun_none' (honest ['P', 'Y', 'O', 'G']) 7 S0 []).trans ?_
  refine (loopRun_step ['P', 'Y', 'O', 'G'] 7 6 ['B', 'G', 'O', 'R'] S0 [] 1 1 E20 ['B', 'O', 'Y', 'P'] [['B', 'G', 'O', 'R']] rfl ((calc_eq_fastP ['P', 'Y', 'O', 'G'] ['B', 'G', 'O', 'R'] (by decide) (by decide)).trans (by decide)) (by decide) pe20 rfl nx20 (by decide) (by decide) (by decide)).trans ?_
  refine Eq.trans (step_lift ['B', 'G', 'O', 'R'] (?_ : loopRun (honest ['P', 'Y', 'O', 'G']) 6 (some ['B', 'O', 'Y', 'P']) E20 [['B', 'G', 'O', 'R']] = (RunResult.solved ['P', 'Y', 'O', 'G'] 5, [['B', 'O', 'Y', 'P'], ['G', 'P', 'O', 'Y'], ['O', 'G', 'P', 'Y'], ['P', 'Y', 'O', 'G']]))) rfl
  refine (loopRun_step ['P', 'Y', 'O', 'G'] 6 5 ['B', 'O', 'Y', 'P'] E20 [['B', 'G', 'O', 'R']] 3 0 E114 ['G', 'P', 'O', 'Y'] [['B', 'G', 'O', 'R'], ['B', 'O', 'Y', 'P']] rfl ((calc_eq_fastP ['P', 'Y', 'O', 'G'] ['B', 'O', 'Y', 'P'] (by decide) (by decide)).trans (by decide)) (by decide) pe114 rfl nx114 (by decide) (by decide) (by decide)).trans ?_
  refine Eq.trans (step_lift ['B', 'O', 'Y', 'P'] (?_ : loopRun (honest ['P', 'Y', 'O', 'G']) 5 (some ['G', 'P', 'O', 'Y']) E114 [['B', 'G', 'O', 'R'], ['B', 'O', 'Y', 'P']] = (RunResult.solved ['P', 'Y', 'O', 'G'] 5, [['G', 'P', 'O', 'Y'], ['O', 'G', 'P', 'Y'], ['P', 'Y', 'O', 'G']]))) rfl
  refine (loopRun_step ['P', 'Y', 'O', 'G'] 5 4 ['G', 'P', 'O', 'Y'] E114 [['B', 'G', 'O', 'R'], ['B', 'O', 'Y', 'P']] 3 1 E145 ['O', 'G', 'P', 'Y'] [['B', 'G', 'O', 'R'], ['B', 'O', 'Y', 'P'], ['G', 'P', 'O', 'Y']] rfl ((calc_eq_fastP ['P', 'Y', 'O', 'G'] ['G', 'P', 'O', 'Y'] (by decide) (by decide)).trans (by decide)) (by decide) pe145 rfl nx145 (by decide) (by decide) (by decide)).trans ?_
  refine Eq.trans (step_lift ['G', 'P', 'O', 'Y'] (?_ : loopRun (honest ['P', 'Y', 'O', 'G']) 4 (some ['O', 'G', 'P', 'Y']) E145 [['B', 'G', 'O', 'R'], ['B', 'O', 'Y', 'P'], ['G', 'P', 'O', 'Y']] = (RunResult.solved ['P', 'Y', 'O', 'G'] 5, [['O', 'G', 'P', 'Y'], ['P', 'Y', 'O', 'G']]))) rfl
  refine (loopRun_step ['P', 'Y', 'O', 'G'] 4 3 ['O', 'G', 'P', 'Y'] E145 [['B', 'G', 'O', 'R'], ['B', 'O', 'Y', 'P'], ['G', 'P', 'O', 'Y']] 4 0 [['P', 'Y', 'O', 'G']] ['P', 'Y', 'O', 'G'] [['B', 'G', 'O', 'R'], ['B', 'O', 'Y', 'P'], ['G', 'P', 'O', 'Y'], ['O', 'G', 'P', 'Y']] rfl ((calc_eq_fastP ['P', 'Y', 'O', 'G'] ['O', 'G', 'P', 'Y'] (by decide) (by decide)).trans (by decide)) (by decide) pe354 rfl (findNextGuess_singleton ['P', 'Y', 'O', 'G'] [['B', 'G', 'O', 'R'], ['B', 'O', 'Y', 'P'], ['G', 'P', 'O', 'Y'], ['O', 'G', 'P', 'Y']]) (by decide) (by decide) (by decide)).trans ?_
  refine Eq.trans (step_lift ['O', 'G', 'P', 'Y'] (?_ : loopRun (honest ['P', 'Y', 'O', 'G']) 3 (some ['P', 'Y', 'O', 'G']) [['P', 'Y', 'O', 'G']] [['B', 'G', 'O', 'R'], ['B', 'O', 'Y', 'P'], ['G', 'P', 'O', 'Y'], ['O', 'G', 'P', 'Y']] = (RunResult.solved ['P', 'Y', 'O', 'G'] 5, [['P', 'Y', 'O', 'G']]))) rfl
  exact loopRun_last ['P', 'Y', 'O', 'G'] 3 2 [['P', 'Y', 'O', 'G']] [['B', 'G', 'O', 'R'], ['B', 'O', 'Y', 'P'], ['G', 'P', 'O', 'Y'], ['O', 'G', 'P', 'Y']] rfl rfl (by decide)

lemma rs356 : loopRun (honest ['P', 'Y', 'O', 'R']) 7 none S0 [] =
    (RunResult.solved ['P', 'Y', 'O', 'R'] 4, [['B', 'G', 'O', 'R'], ['B', 'G', 'Y', 'P'], ['Y', 'P', 'O', 'R'], ['P', 'Y', 'O', 'R']]) := by
  refine (loopRun_none' (honest ['P', 'Y', 'O', 'R']) 7 S0 []).trans ?_
  refine (loopRun_step ['P', 'Y', 'O', 'R'] 7 6 ['B', 'G', 'O', 'R'] S0 [] 0 2 E8 ['B', 'G', 'Y', 'P'] [['B', 'G', 'O', 'R']] rfl ((calc_eq_fastP ['P', 'Y', 'O', 'R'] ['B', 'G', 'O', 'R'] (by decide) (by decide)).trans (by decide)) (by decide) pe8 rfl nx8 (by decide) (by decide) (by decide)).trans ?_
  refine Eq.trans (step_lift ['B', 'G', 'O', 'R'] (?_ : loopRun (honest ['P', 'Y', 'O', 'R']) 6 (some ['B', 'G', 'Y', 'P']) E8 [['B', 'G', 'O', 'R']] = (RunResult.solved ['P', 'Y', 'O', 'R'] 4, [['B', 'G', 'Y', 'P'], ['Y', 'P', 'O', 'R'], ['P', 'Y', 'O', 'R']]))) rfl
  refine (loopRun_step ['P', 'Y', 'O', 'R'] 6 5 ['B', 'G', 'Y', 'P'] E8 [['B', 'G', 'O', 'R']] 2 0 E295 ['Y', 'P', 'O', 'R'] [['B', 'G', 'O', 'R'], ['B', 'G', 'Y', 'P']] rfl ((calc_eq_fastP ['P', 'Y', 'O', 'R'] ['B', 'G', 'Y', 'P'] (by decide) (by decide)).trans (by decide)) (by decide) pe295 rfl nx295 (by decide) (by decide) (by decide)).trans ?_
  refine Eq.trans (step_lift ['B', 'G', 'Y', 'P'] (?_ : loopRun (honest ['P', 'Y', 'O', 'R']) 5 (some ['Y', 'P', 'O', 'R']) E295 [['B', 'G', 'O', 'R'], ['B', 'G', 'Y', 'P']] = (RunResult.solved ['P', 'Y', 'O', 'R'] 4, [['Y', 'P', 'O', 'R'], ['P', 'Y', 'O', 'R']]))) rfl
  refine (loopRun_step ['P', 'Y', 'O', 'R'] 5 4 ['Y', 'P', 'O', 'R'] E295 [['B', 'G', 'O', 'R'], ['B', 'G', 'Y', 'P']] 2 2 [['P', 'Y', 'O', 'R']] ['P', 'Y', 'O', 'R'] [['B', 'G', 'O', 'R'], ['B', 'G', 'Y', 'P'], ['Y', 'P', 'O', 'R']] rfl ((calc_eq_fastP ['P', 'Y', 'O', 'R'] ['Y', 'P', 'O', 'R'] (by decide) (by decide)).trans (by decide)) (by decide) pe355 rfl (findNextGuess_singleton ['P', 'Y', 'O', 'R'] [['B', 'G', 'O', 'R'], ['B', 'G', 'Y', 'P'], ['Y', 'P', 'O', 'R']]) (by decide) (by decide) (by decide)).trans ?_
  refine Eq.trans (step_lift ['Y', 'P', 'O', 'R'] (?_ : loopRun (honest ['P', 'Y', 'O', 'R']) 4 (some ['P', 'Y', 'O', 'R']) [['P', 'Y', 'O', 'R']] [['B', 'G', 'O', 'R'], ['B', 'G', 'Y', 'P'], ['Y', 'P', 'O', 'R']] = (RunResult.solved ['P', 'Y', 'O', 'R'] 4, [['P', 'Y', 'O', 'R']]))) rfl
  exact loopRun_last ['P', 'Y', 'O', 'R'] 4 3 [['P', 'Y', 'O', 'R']] [['B', 'G', 'O', 'R'], ['B', 'G', 'Y', 'P'], ['Y', 'P', 'O', 'R']] rfl rfl (by decide)

lemma rs357 : loopRun (honest ['P', 'Y', 'R', 'B']) 7 none S0 [] =
    (RunResult.solved ['P', 'Y', 'R', 'B'] 4, [['B', 'G', 'O', 'R'], ['G', 'Y', 'R', 'P'], ['G', 'O', 'Y', 'P'], ['P', 'Y', 'R', 'B']]) := by
  refine (loopRun_none' (honest ['P', 'Y', 'R', 'B']) 7 S0 []).trans ?_
  refine (loopRun_step ['P', 'Y', 'R', 'B'] 7 6 ['B', 'G', 'O', 'R'] S0 [] 2 0 E72 ['G', 'Y', 'R', 'P'] [['B', 'G', 'O', 'R']] rfl ((calc_eq_fastP ['P', 'Y', 'R', 'B'] ['B', 'G', 'O', 'R'] (by decide) (by decide)).trans (by decide)) (by decide) pe72 rfl nx72 (by decide) (by decide) (by decide)).trans ?_
  refine Eq.trans (step_lift ['B', 'G', 'O', 'R'] (?_ : loopRun (honest ['P', 'Y', 'R', 'B']) 6 (some ['G', 'Y', 'R', 'P']) E72 [['B', 'G', 'O', 'R']] = (RunResult.solved ['P', 'Y', 'R', 'B'] 4, [['G', 'Y', 'R', 'P'], ['G', 'O', 'Y', 'P'], ['P', 'Y', 'R', 'B']]))) rfl
  refine (loopRun_step ['P', 'Y', 'R', 'B'] 6 5 ['G', 'Y', 'R', 'P'] E72 [['B', 'G', 'O', 'R']] 1 2 E73 ['G', 'O', 'Y', 'P'] [['B', 'G', 'O', 'R'], ['G', 'Y', 'R', 'P']] rfl ((calc_eq_fastP ['P', 'Y', 'R', 'B'] ['G', 'Y', 'R', 'P'] (by decide) (by decide)).trans (by decide)) (by decide) pe73 rfl nx73 (by decide) (by decide) (by decide)).trans ?_
  refine Eq.trans (step_lift ['G', 'Y', 'R', 'P'] (?_ : loopRun (honest ['P', 'Y', 'R', 'B']) 5 (some ['G', 'O', 'Y', 'P']) E73 [['B', 'G', 'O', 'R'], ['G', 'Y', 'R', 'P']] = (RunResult.solved ['P', 'Y', 'R', 'B'] 4, [['G', 'O', 'Y', 'P'], ['P', 'Y', 'R', 'B']]))) rfl
  refine (loopRun_step ['P', 'Y', 'R', 'B'] 5 4 ['G', 'O', 'Y', 'P'] E73 [['B', 'G', 'O', 'R'], ['G', 'Y', 'R', 'P']] 2 0 [['P', 'Y', 'R', 'B']] ['P', 'Y', 'R', 'B'] [['B', 'G', 'O', 'R'], ['G', 'Y', 'R', 'P'], ['G', 'O', 'Y', 'P']] rfl ((calc_eq_fastP ['P', 'Y', 'R', 'B'] ['G', 'O', 'Y', 'P'] (by decide) (by decide)).trans (by decide)) (by decide) pe356 rfl (findNextGuess_singleton ['P', 'Y', 'R', 'B'] [['B', 'G', 'O', 'R'], ['G', 'Y', 'R', 'P'], ['G', 'O', 'Y', 'P']]) (by decide) (by decide) (by decide)).trans ?_
  refine Eq.trans (step_lift ['G', 'O', 'Y', 'P'] (?_ : loopRun (honest ['P', 'Y', 'R', 'B']) 4 (some ['P', 'Y', 'R', 'B']) [['P', 'Y', 'R', 'B']] [['B', 'G', 'O', 'R'], ['G', 'Y', 'R', 'P'], ['G', 'O', 'Y', 'P']] = (RunResult.solved ['P', 'Y', 'R', 'B'] 4, [['P', 'Y', 'R', 'B']]))) rfl
  exact loopRun_last ['P', 'Y', 'R', 'B'] 4 3 [['P', 'Y', 'R', 'B']] [['B', 'G', 'O', 'R'], ['G', 'Y', 'R', 'P'], ['G', 'O', 'Y', 'P']] rfl rfl (by decide)

lemma rs358 : loopRun (honest ['P', 'Y', 'R', 'G']) 7 none S0 [] =
    (RunResult.solved ['P', 'Y', 'R', 'G'] 4, [['B', 'G', 'O', 'R'], ['G', 'Y', 'R', 'P'], ['G', 'R', 'Y', 'P'], ['P', 'Y', 'R', 'G']]) := by
  refine (loopRun_none' (honest ['P', 'Y', 'R', 'G']) 7 S0 []).trans ?_
  refine (loopRun_step ['P', 'Y', 'R', 'G'] 7 6 ['B', 'G', 'O', 'R'] S0 [] 2 0 E72 ['G', 'Y', 'R', 'P'] [['B', 'G', 'O', 'R']] rfl ((calc_eq_fastP ['P', 'Y', 'R', 'G'] ['B', 'G', 'O', 'R'] (by decide) (by decide)).trans (by decide)) (by decide) pe72 rfl nx72 (by decide) (by decide) (by decide)).trans ?_
  refine Eq.trans (step_lift ['B', 'G', 'O', 'R'] (?_ : loopRun (honest ['P', 'Y', 'R', 'G']) 6 (some ['G', 'Y', 'R', 'P']) E72 [['B', 'G', 'O', 'R']] = (RunResult.solved ['P', 'Y', 'R', 'G'] 4, [['G', 'Y', 'R', 'P'], ['G', 'R', 'Y', 'P'], ['P', 'Y', 'R', 'G']]))) rfl
  refine (loopRun_step ['P', 'Y', 'R', 'G'] 6 5 ['G', 'Y', 'R', 'P'] E72 [['B', 'G', 'O', 'R']] 2 2 E96 ['G', 'R', 'Y', 'P'] [['B', 'G', 'O', 'R'], ['G', 'Y', 'R', 'P']] rfl ((calc_eq_fastP ['P', 'Y', 'R', 'G'] ['G', 'Y', 'R', 'P'] (by decide) (by decide)).trans (by decide)) (by decide) pe96 rfl nx96 (by decide) (by decide) (by decide)).trans ?_
  refine Eq.trans (step_lift ['G', 'Y', 'R', 'P'] (?_ : loopRun (honest ['P', 'Y', 'R', 'G']) 5 (some ['G', 'R', 'Y', 'P']) E96 [['B', 'G', 'O', 'R'], ['G', 'Y', 'R', 'P']] = (RunResult.solved ['P', 'Y', 'R', 'G'] 4, [['G', 'R', 'Y', 'P'], ['P', 'Y', 'R', 'G']]))) rfl
  refine (loopRun_step ['P', 'Y', 'R', 'G'] 5 4 ['G', 'R', 'Y', 'P'] E96 [['B', 'G', 'O', 'R'], ['G', 'Y', 'R', 'P']] 4 0 [['P', 'Y', 'R', 'G']] ['P', 'Y', 'R', 'G'] [['B', 'G', 'O', 'R'], ['G', 'Y', 'R', 'P'], ['G', 'R', 'Y', 'P']] rfl ((calc_eq_fastP ['P', 'Y', 'R', 'G'] ['G', 'R', 'Y', 'P'] (by decide) (by decide)).trans (by decide)) (by decide) pe357 rfl (findNextGuess_singleton ['P', 'Y', 'R', 'G'] [['B', 'G', 'O', 'R'], ['G', 'Y', 'R', 'P'], ['G', 'R', 'Y', 'P']]) (by decide) (by decide) (by decide)).trans ?_
  refine Eq.trans (step_lift ['G', 'R', 'Y', 'P'] (?_ : loopRun (honest ['P', 'Y', 'R', 'G']) 4 (some ['P', 'Y', 'R', 'G']) [['P', 'Y', 'R', 'G']] [['B', 'G', 'O', 'R'], ['G', 'Y', 'R', 'P'], ['G', 'R', 'Y', 'P']] = (RunResult.solved ['P', 'Y', 'R', 'G'] 4, [['P', 'Y', 'R', 'G']]))) rfl
  exact loopRun_last ['P', 'Y', 'R', 'G'] 4 3 [['P', 'Y', 'R', 'G']] [['B', 'G', 'O', 'R'], ['G', 'Y', 'R', 'P'], ['G', 'R', 'Y', 'P']] rfl rfl (by decide)

lemma rs359 : loopRun (honest ['P', 'Y', 'R', 'O']) 7 none S0 [] =
    (RunResult.solved ['P', 'Y', 'R', 'O'] 4, [['B', 'G', 'O', 'R'], ['G', 'Y', 'R', 'P'], ['G', 'O', 'Y', 'P'], ['P', 'Y', 'R', 'O']]) := by
  refine (loopRun_none' (honest ['P', 'Y', 'R', 'O']) 7 S0 []).trans ?_
  refine (loopRun_step ['P', 'Y', 'R', 'O'] 7 6 ['B', 'G', 'O', 'R'] S0 [] 2 0 E72 ['G', 'Y', 'R', 'P'] [['B', 'G', 'O', 'R']] rfl ((calc_eq_fastP ['P', 'Y', 'R', 'O'] ['B', 'G', 'O', 'R'] (by decide) (by decide)).trans (by decide)) (by decide) pe72 rfl nx72 (by decide) (by decide) (by decide)).trans ?_
  refine Eq.trans (step_lift ['B', 'G', 'O', 'R'] (?_ : loopRun (honest ['P', 'Y', 'R', 'O']) 6 (some ['G', 'Y', 'R', 'P']) E72 [['B', 'G', 'O', 'R']] = (RunResult.solved ['P', 'Y', 'R', 'O'] 4, [['G', 'Y', 'R', 'P'], ['G', 'O', 'Y', 'P'], ['P', 'Y', 'R', 'O']]))) rfl
  refine (loopRun_step ['P', 'Y', 'R', 'O'] 6 5 ['G', 'Y', 'R', 'P'] E72 [['B', 'G', 'O', 'R']] 1 2 E73 ['G', 'O', 'Y', 'P'] [['B', 'G', 'O', 'R'], ['G', 'Y', 'R', 'P']] rfl ((calc_eq_fastP ['P', 'Y', 'R', 'O'] ['G', 'Y', 'R', 'P'] (by decide) (by decide)).trans (by decide)) (by decide) pe73 rfl nx73 (by decide) (by decide) (by decide)).trans ?_
  refine Eq.trans (step_lift ['G', 'Y', 'R', 'P'] (?_ : loopRun (honest ['P', 'Y', 'R', 'O']) 5 (some ['G', 'O', 'Y', 'P']) E73 [['B', 'G', 'O', 'R'], ['G', 'Y', 'R', 'P']] = (RunResult.solved ['P', 'Y', 'R', 'O'] 4, [['G', 'O', 'Y', 'P'], ['P', 'Y', 'R', 'O']]))) rfl
  refine (loopRun_step ['P', 'Y', 'R', 'O'] 5 4 ['G', 'O', 'Y', 'P'] E73 [['B', 'G', 'O', 'R'], ['G', 'Y', 'R', 'P']] 3 0 [['P', 'Y', 'R', 'O']] ['P', 'Y', 'R', 'O'] [['B', 'G', 'O', 'R'], ['G', 'Y', 'R', 'P'], ['G', 'O', 'Y', 'P']] rfl ((calc_eq_fastP ['P', 'Y', 'R', 'O'] ['G', 'O', 'Y', 'P'] (by decide) (by decide)).trans (by decide)) (by decide) pe358 rfl (findNextGuess_singleton ['P', 'Y', 'R', 'O'] [['B', 'G', 'O', 'R'], ['G', 'Y', 'R', 'P'], ['G', 'O', 'Y', 'P']]) (by decide) (by decide) (by decide)).trans ?_
  refine Eq.trans (step_lift ['G', 'O', 'Y', 'P'] (?_ : loopRun (honest ['P', 'Y', 'R', 'O']) 4 (some ['P', 'Y', 'R', 'O']) [['P', 'Y', 'R', 'O']] [['B', 'G', 'O', 'R'], ['G', 'Y', 'R', 'P'], ['G', 'O', 'Y', 'P']] = (RunResult.solved ['P', 'Y', 'R', 'O'] 4, [['P', 'Y', 'R', 'O']]))) rfl
  exact loopRun_last ['P', 'Y', 'R', 'O'] 4 3 [['P', 'Y', 'R', 'O']] [['B', 'G', 'O', 'R'], ['G', 'Y', 'R', 'P'], ['G', 'O', 'Y', 'P']] rfl rfl (by decide)

lemma tl35 : ∀ s ∈ ([['P', 'Y', 'B', 'R'],
      ['P', 'Y', 'G', 'B'],
      ['P', 'Y', 'G', 'O'],
      ['P', 'Y', 'G', 'R'],
      ['P', 'Y', 'O', 'B'],
      ['P', 'Y', 'O', 'G'],
      ['P', 'Y', 'O', 'R'],
      ['P', 'Y', 'R', 'B'],
      ['P', 'Y', 'R', 'G'],
      ['P', 'Y', 'R', 'O']] : List Code),
    ∃ k : Nat, k ≤ 6 ∧ (loopRun (honest s) 7 none S0 []).1 = RunResult.solved s k :=
  List.forall_mem_cons.mpr ⟨⟨5, by decide, fst_of_eq rs350⟩,
  List.forall_mem_cons.mpr ⟨⟨5, by decide, fst_of_eq rs351⟩,
  List.forall_mem_cons.mpr ⟨⟨5, by decide, fst_of_eq rs352⟩,
  List.forall_mem_cons.mpr ⟨⟨4, by decide, fst_of_eq rs353⟩,
  List.forall_mem_cons.mpr ⟨⟨4, by decide, fst_of_eq rs354⟩,
  List.forall_mem_cons.mpr ⟨⟨5, by decide, fst_of_eq rs355⟩,
  List.forall_mem_cons.mpr ⟨⟨4, by decide, fst_of_eq rs356⟩,
  List.forall_mem_cons.mpr ⟨⟨4, by decide, fst_of_eq rs357⟩,
  List.forall_mem_cons.mpr ⟨⟨4, by decide, fst_of_eq rs358⟩,
  List.forall_mem_cons.mpr ⟨⟨4, by decide, fst_of_eq rs359⟩,
  List.forall_mem_nil _⟩⟩⟩⟩⟩⟩⟩⟩⟩⟩


lemma tl34 : ∀ s ∈ ([['P', 'R', 'G', 'O'],
      ['P', 'R', 'G', 'Y'],
      ['P', 'R', 'O', 'B'],
      ['P', 'R', 'O', 'G'],
      ['P', 'R', 'O', 'Y'],
      ['P', 'R', 'Y', 'B'],
      ['P', 'R', 'Y', 'G'],
      ['P', 'R', 'Y', 'O'],
      ['P', 'Y', 'B', 'G'],
      ['P', 'Y', 'B', 'O'],
      ['P', 'Y', 'B', 'R'],
      ['P', 'Y', 'G', 'B'],
      ['P', 'Y', 'G', 'O'],
      ['P', 'Y', 'G', 'R'],
      ['P', 'Y', 'O', 'B'],
      ['P', 'Y', 'O', 'G'],
      ['P', 'Y', 'O', 'R'],
      ['P', 'Y', 'R', 'B'],
      ['P', 'Y', 'R', 'G'],
      ['P', 'Y', 'R', 'O']] : List Code),
    ∃ k : Nat, k ≤ 6 ∧ (loopRun (honest s) 7 none S0 []).1 = RunResult.solved s k :=
  List.forall_mem_cons.mpr ⟨⟨5, by decide, fst_of_eq rs340⟩,
  List.forall_mem_cons.mpr ⟨⟨5, by decide, fst_of_eq rs341⟩,
  List.forall_mem_cons.mpr ⟨⟨5, by decide, fst_of_eq rs342⟩,
  List.forall_mem_cons.mpr ⟨⟨5, by decide, fst_of_eq rs343⟩,
  List.forall_mem_cons.mpr ⟨⟨4, by decide, fst_of_eq rs344⟩,
  List.forall_mem_cons.mpr ⟨⟨4, by decide, fst_of_eq rs345⟩,
  List.forall_mem_cons.mpr ⟨⟨5, by decide, fst_of_eq rs346⟩,
  List.forall_mem_cons.mpr ⟨⟨5, by decide, fst_of_eq rs347⟩,
  List.forall_mem_cons.mpr ⟨⟨4, by decide, fst_of_eq rs348⟩,
  List.forall_mem_cons.mpr ⟨⟨4, by decide, fst_of_eq rs349⟩,
  tl35⟩⟩⟩⟩⟩⟩⟩⟩⟩⟩


lemma tl33 : ∀ s ∈ ([['P', 'O', 'R', 'B'],
      ['P', 'O', 'R', 'G'],
      ['P', 'O', 'R', 'Y'],
      ['P', 'O', 'Y', 'B'],
      ['P', 'O', 'Y', 'G'],
      ['P', 'O', 'Y', 'R'],
      ['P', 'R', 'B', 'G'],
      ['P', 'R', 'B', 'O'],
      ['P', 'R', 'B', 'Y'],
      ['P', 'R', 'G', 'B'],
      ['P', 'R', 'G', 'O'],
      ['P', 'R', 'G', 'Y'],
      ['P', 'R', 'O', 'B'],
      ['P', 'R', 'O', 'G'],
      ['P', 'R', 'O', 'Y'],
      ['P', 'R', 'Y', 'B'],
      ['P', 'R', 'Y', 'G'],
      ['P', 'R', 'Y', 'O'],
      ['P', 'Y', 'B', 'G'],
      ['P', 'Y', 'B', 'O'],
      ['P', 'Y', 'B', 'R'],
      ['P', 'Y', 'G', 'B'],
      ['P', 'Y', 'G', 'O'],
      ['P', 'Y', 'G', 'R'],
      ['P', 'Y', 'O', 'B'],
      ['P', 'Y', 'O', 'G'],
      ['P', 'Y', 'O', 'R'],
      ['P', 'Y', 'R', 'B'],
      ['P', 'Y', 'R', 'G'],
      ['P', 'Y', 'R', 'O']] : List Code),
    ∃ k : Nat, k ≤ 6 ∧ (loopRun (honest s) 7 none S0 []).1 = RunResult.solved s k :=
  List.forall_mem_cons.mpr ⟨⟨5, by decide, fst_of_eq rs330⟩,
  List.forall_mem_cons.mpr ⟨⟨5, by decide, fst_of_eq rs331⟩,
  List.forall_mem_cons.mpr ⟨⟨5, by decide, fst_of_eq rs332⟩,
  List.forall_mem_cons.mpr ⟨⟨5, by decide, fst_of_eq rs333⟩,
  List.forall_mem_cons.mpr ⟨⟨5, by decide, fst_of_eq rs334⟩,
  List.forall_mem_cons.mpr ⟨⟨4, by decide, fst_of_eq rs335⟩,
  List.forall_mem_cons.mpr ⟨⟨5, by decide, fst_of_eq rs336⟩,
  List.forall_mem_cons.mpr ⟨⟨5, by decide, fst_of_eq rs337⟩,
  List.forall_mem_cons.mpr ⟨⟨5, by decide, fst_of_eq rs338⟩,
  List.forall_mem_cons.mpr ⟨⟨5, by decide, fst_of_eq rs339⟩,
  tl34⟩⟩⟩⟩⟩⟩⟩⟩⟩⟩


lemma tl32 : ∀ s ∈ ([['P', 'G', 'R', 'Y'],
      ['P', 'G', 'Y', 'B'],
      ['P', 'G', 'Y', 'O'],
      ['P', 'G', 'Y', 'R'],
      ['P', 'O', 'B', 'G'],
      ['P', 'O', 'B', 'R'],
      ['P', 'O', 'B', 'Y'],
      ['P', 'O', 'G', 'B'],
      ['P', 'O', 'G', 'R'],
      ['P', 'O', 'G', 'Y'],
      ['P', 'O', 'R', 'B'],
      ['P', 'O', 'R', 'G'],
      ['P', 'O', 'R', 'Y'],
      ['P', 'O', 'Y', 'B'],
      ['P', 'O', 'Y', 'G'],
      ['P', 'O', 'Y', 'R'],
      ['P', 'R', 'B', 'G'],
      ['P', 'R', 'B', 'O'],
      ['P', 'R', 'B', 'Y'],
      ['P', 'R', 'G', 'B'],
      ['P', 'R', 'G', 'O'],
      ['P', 'R', 'G', 'Y'],
      ['P', 'R', 'O', 'B'],
      ['P', 'R', 'O', 'G'],
      ['P', 'R', 'O', 'Y'],
      ['P', 'R', 'Y', 'B'],
      ['P', 'R', 'Y', 'G'],
      ['P', 'R', 'Y', 'O'],
      ['P', 'Y', 'B', 'G'],
      ['P', 'Y', 'B', 'O'],
      ['P', 'Y', 'B', 'R'],
      ['P', 'Y', 'G', 'B'],
      ['P', 'Y', 'G', 'O'],
      ['P', 'Y', 'G', 'R'],
      ['P', 'Y', 'O', 'B'],
      ['P', 'Y', 'O', 'G'],
      ['P', 'Y', 'O', 'R'],
      ['P', 'Y', 'R', 'B'],
      ['P', 'Y', 'R', 'G'],
      ['P', 'Y', 'R', 'O']] : List Code),
    ∃ k : Nat, k ≤ 6 ∧ (loopRun (honest s) 7 none S0 []).1 = RunResult.solved s k :=
  List.forall_mem_cons.mpr ⟨⟨4, by decide, fst_of_eq rs320⟩,
  List.forall_mem_cons.mpr ⟨⟨5, by decide, fst_of_eq rs321⟩,
  List.forall_mem_cons.mpr ⟨⟨5, by decide, fst_of_eq rs322⟩,
  List.forall_mem_cons.mpr ⟨⟨4, by decide, fst_of_eq rs323⟩,
  List.forall_mem_cons.mpr ⟨⟨5, by decide, fst_of_eq rs324⟩,
  List.forall_mem_cons.mpr ⟨⟨4, by decide, fst_of_eq rs325⟩,
  List.forall_mem_cons.mpr ⟨⟨5, by decide, fst_of_eq rs326⟩,
  List.forall_mem_cons.mpr ⟨⟨5, by decide, fst_of_eq rs327⟩,
  List.forall_mem_cons.mpr ⟨⟨5, by decide, fst_of_eq rs328⟩,
  List.forall_mem_cons.mpr ⟨⟨5, by decide, fst_of_eq rs329⟩,
  tl33⟩⟩⟩⟩⟩⟩⟩⟩⟩⟩


lemma tl31 : ∀ s ∈ ([['P', 'B', 'Y', 'O'],
      ['P', 'B', 'Y', 'R'],
      ['P', 'G', 'B', 'O'],
      ['P', 'G', 'B', 'R'],
      ['P', 'G', 'B', 'Y'],
      ['P', 'G', 'O', 'B'],
      ['P', 'G', 'O', 'R'],
      ['P', 'G', 'O', 'Y'],
      ['P', 'G', 'R', 'B'],
      ['P', 'G', 'R', 'O'],
      ['P', 'G', 'R', 'Y'],
      ['P', 'G', 'Y', 'B'],
      ['P', 'G', 'Y', 'O'],
      ['P', 'G', 'Y', 'R'],
      ['P', 'O', 'B', 'G'],
      ['P', 'O', 'B', 'R'],
      ['P', 'O', 'B', 'Y'],
      ['P', 'O', 'G', 'B'],
      ['P', 'O', 'G', 'R'],
      ['P', 'O', 'G', 'Y'],
      ['P', 'O', 'R', 'B'],
      ['P', 'O', 'R', 'G'],
      ['P', 'O', 'R', 'Y'],
      ['P', 'O', 'Y', 'B'],
      ['P', 'O', 'Y', 'G'],
      ['P', 'O', 'Y', 'R'],
      ['P', 'R', 'B', 'G'],
      ['P', 'R', 'B', 'O'],
      ['P', 'R', 'B', 'Y'],
      ['P', 'R', 'G', 'B'],
      ['P', 'R', 'G', 'O'],
      ['P', 'R', 'G', 'Y'],
      ['P', 'R', 'O', 'B'],
      ['P', 'R', 'O', 'G'],
      ['P', 'R', 'O', 'Y'],
      ['P', 'R', 'Y', 'B'],
      ['P', 'R', 'Y', 'G'],
      ['P', 'R', 'Y', 'O'],
      ['P', 'Y', 'B', 'G'],
      ['P', 'Y', 'B', 'O'],
      ['P', 'Y', 'B', 'R'],
      ['P', 'Y', 'G', 'B'],
      ['P', 'Y', 'G', 'O'],
      ['P', 'Y', 'G', 'R'],
      ['P', 'Y', 'O', 'B'],
      ['P', 'Y', 'O', 'G'],
      ['P', 'Y', 'O', 'R'],
      ['P', 'Y', 'R', 'B'],
      ['P', 'Y', 'R', 'G'],
      ['P', 'Y', 'R', 'O']] : List Code),
    ∃ k : Nat, k ≤ 6 ∧ (loopRun (honest s) 7 none S0 []).1 = RunResult.solved s k :=
  List.forall_mem_cons.mpr ⟨⟨6, by decide, fst_of_eq rs310⟩,
  List.forall_mem_cons.mpr ⟨⟨4, by decide, fst_of_eq rs311⟩,
  List.forall_mem_cons.mpr ⟨⟨5, by decide, fst_of_eq rs312⟩,
  List.forall_mem_cons.mpr ⟨⟨4, by decide, fst_of_eq rs313⟩,
  List.forall_mem_cons.mpr ⟨⟨4, by decide, fst_of_eq rs314⟩,
  List.forall_mem_cons.mpr ⟨⟨5, by decide, fst_of_eq rs315⟩,
  List.forall_mem_cons.mpr ⟨⟨5, by decide, fst_of_eq rs316⟩,
  List.forall_mem_cons.mpr ⟨⟨4, by decide, fst_of_eq rs317⟩,
  List.forall_mem_cons.mpr ⟨⟨4, by decide, fst_of_eq rs318⟩,
  List.forall_mem_cons.mpr ⟨⟨5, by decide, fst_of_eq rs319⟩,
  tl32⟩⟩⟩⟩⟩⟩⟩⟩⟩⟩


lemma tl30 : ∀ s ∈ ([['P', 'B', 'G', 'O'],
      ['P', 'B', 'G', 'R'],
      ['P', 'B', 'G', 'Y'],
      ['P', 'B', 'O', 'G'],
      ['P', 'B', 'O', 'R'],
      ['P', 'B', 'O', 'Y'],
      ['P', 'B', 'R', 'G'],
      ['P', 'B', 'R', 'O'],
      ['P', 'B', 'R', 'Y'],
      ['P', 'B', 'Y', 'G'],
      ['P', 'B', 'Y', 'O'],
      ['P', 'B', 'Y', 'R'],
      ['P', 'G', 'B', 'O'],
      ['P', 'G', 'B', 'R'],
      ['P', 'G', 'B', 'Y'],
      ['P', 'G', 'O', 'B'],
      ['P', 'G', 'O', 'R'],
      ['P', 'G', 'O', 'Y'],
      ['P', 'G', 'R', 'B'],
      ['P', 'G', 'R', 'O'],
      ['P', 'G', 'R', 'Y'],
      ['P', 'G', 'Y', 'B'],
      ['P', 'G', 'Y', 'O'],
      ['P', 'G', 'Y', 'R'],
      ['P', 'O', 'B', 'G'],
      ['P', 'O', 'B', 'R'],
      ['P', 'O', 'B', 'Y'],
      ['P', 'O', 'G', 'B'],
      ['P', 'O', 'G', 'R'],
      ['P', 'O', 'G', 'Y'],
      ['P', 'O', 'R', 'B'],
      ['P', 'O', 'R', 'G'],
      ['P', 'O', 'R', 'Y'],
      ['P', 'O', 'Y', 'B'],
      ['P', 'O', 'Y', 'G'],
      ['P', 'O', 'Y', 'R'],
      ['P', 'R', 'B', 'G'],
      ['P', 'R', 'B', 'O'],
      ['P', 'R', 'B', 'Y'],
      ['P', 'R', 'G', 'B'],
      ['P', 'R', 'G', 'O'],
      ['P', 'R', 'G', 'Y'],
      ['P', 'R', 'O', 'B'],
      ['P', 'R', 'O', 'G'],
      ['P', 'R', 'O', 'Y'],
      ['P', 'R', 'Y', 'B'],
      ['P', 'R', 'Y', 'G'],
      ['P', 'R', 'Y', 'O'],
      ['P', 'Y', 'B', 'G'],
      ['P', 'Y', 'B', 'O'],
      ['P', 'Y', 'B', 'R'],
      ['P', 'Y', 'G', 'B'],
      ['P', 'Y', 'G', 'O'],
      ['P', 'Y', 'G', 'R'],
      ['P', 'Y', 'O', 'B'],
      ['P', 'Y', 'O', 'G'],
      ['P', 'Y', 'O', 'R'],
      ['P', 'Y', 'R', 'B'],
      ['P', 'Y', 'R', 'G'],
      ['P', 'Y', 'R', 'O']] : List Code),
    ∃ k : Nat, k ≤ 6 ∧ (loopRun (honest s) 7 none S0 []).1 = RunResult.solved s k :=
  List.forall_mem_cons.mpr ⟨⟨5, by decide, fst_of_eq rs300⟩,
  List.forall_mem_cons.mpr ⟨⟨5, by decide, fst_of_eq rs301⟩,
  List.forall_mem_cons.mpr ⟨⟨5, by decide, fst_of_eq rs302⟩,
  List.forall_mem_cons.mpr ⟨⟨5, by decide, fst_of_eq rs303⟩,
  List.forall_mem_cons.mpr ⟨⟨4, by decide, fst_of_eq rs304⟩,
  List.forall_mem_cons.mpr ⟨⟨4, by decide, fst_of_eq rs305⟩,
  List.forall_mem_cons.mpr ⟨⟨5, by decide, fst_of_eq rs306⟩,
  List.forall_mem_cons.mpr ⟨⟨5, by decide, fst_of_eq rs307⟩,
  List.forall_mem_cons.mpr ⟨⟨4, by decide, fst_of_eq rs308⟩,
  List.forall_mem_cons.mpr ⟨⟨5, by decide, fst_of_eq rs309⟩,
  tl31⟩⟩⟩⟩⟩⟩⟩⟩⟩⟩


lemma tl29 : ∀ s ∈ ([['Y', 'P', 'B', 'R'],
      ['Y', 'P', 'G', 'B'],
      ['Y', 'P', 'G', 'O'],
      ['Y', 'P', 'G', 'R'],
      ['Y', 'P', 'O', 'B'],
      ['Y', 'P', 'O', 'G'],
      ['Y', 'P', 'O', 'R'],
      ['Y', 'P', 'R', 'B'],
      ['Y', 'P', 'R', 'G'],
      ['Y', 'P', 'R', 'O'],
      ['P', 'B', 'G', 'O'],
      ['P', 'B', 'G', 'R'],
      ['P', 'B', 'G', 'Y'],
      ['P', 'B', 'O', 'G'],
      ['P', 'B', 'O', 'R'],
      ['P', 'B', 'O', 'Y'],
      ['P', 'B', 'R', 'G'],
      ['P', 'B', 'R', 'O'],
      ['P', 'B', 'R', 'Y'],
      ['P', 'B', 'Y', 'G'],
      ['P', 'B', 'Y', 'O'],
      ['P', 'B', 'Y', 'R'],
      ['P', 'G', 'B', 'O'],
      ['P', 'G', 'B', 'R'],
      ['P', 'G', 'B', 'Y'],
      ['P', 'G', 'O', 'B'],
      ['P', 'G', 'O', 'R'],
      ['P', 'G', 'O', 'Y'],
      ['P', 'G', 'R', 'B'],
      ['P', 'G', 'R', 'O'],
      ['P', 'G', 'R', 'Y'],
      ['P', 'G', 'Y', 'B'],
      ['P', 'G', 'Y', 'O'],
      ['P', 'G', 'Y', 'R'],
      ['P', 'O', 'B', 'G'],
      ['P', 'O', 'B', 'R'],
      ['P', 'O', 'B', 'Y'],
      ['P', 'O', 'G', 'B'],
      ['P', 'O', 'G', 'R'],
      ['P', 'O', 'G', 'Y'],
      ['P', 'O', 'R', 'B'],
      ['P', 'O', 'R', 'G'],
      ['P', 'O', 'R', 'Y'],
      ['P', 'O', 'Y', 'B'],
      ['P', 'O', 'Y', 'G'],
      ['P', 'O', 'Y', 'R'],
      ['P', 'R', 'B', 'G'],
      ['P', 'R', 'B', 'O'],
      ['P', 'R', 'B', 'Y'],
      ['P', 'R', 'G', 'B'],
      ['P', 'R', 'G', 'O'],
      ['P', 'R', 'G', 'Y'],
      ['P', 'R', 'O', 'B'],
      ['P', 'R', 'O', 'G'],
      ['P', 'R', 'O', 'Y'],
      ['P', 'R', 'Y', 'B'],
      ['P', 'R', 'Y', 'G'],
      ['P', 'R', 'Y', 'O'],
      ['P', 'Y', 'B', 'G'],
      ['P', 'Y', 'B', 'O'],
      ['P', 'Y', 'B', 'R'],
      ['P', 'Y', 'G', 'B'],
      ['P', 'Y', 'G', 'O'],
      ['P', 'Y', 'G', 'R'],
      ['P', 'Y', 'O', 'B'],
      ['P', 'Y', 'O', 'G'],
      ['P', 'Y', 'O', 'R'],
      ['P', 'Y', 'R', 'B'],
      ['P', 'Y', 'R', 'G'],
      ['P', 'Y', 'R', 'O']] : List Code),
    ∃ k : Nat, k ≤ 6 ∧ (loopRun (honest s) 7 none S0 []).1 = RunResult.solved s k :=
  List.forall_mem_cons.mpr ⟨⟨4, by decide, fst_of_eq rs290⟩,
  List.forall_mem_cons.mpr ⟨⟨5, by decide, fst_of_eq rs291⟩,
  List.forall_mem_cons.mpr ⟨⟨5, by decide, fst_of_eq rs292⟩,
  List.forall_mem_cons.mpr ⟨⟨5, by decide, fst_of_eq rs293⟩,
  List.forall_mem_cons.mpr ⟨⟨3, by decide, fst_of_eq rs294⟩,
  List.forall_mem_cons.mpr ⟨⟨4, by decide, fst_of_eq rs295⟩,
  List.forall_mem_cons.mpr ⟨⟨3, by decide, fst_of_eq rs296⟩,
  List.forall_mem_cons.mpr ⟨⟨5, by decide, fst_of_eq rs297⟩,
  List.forall_mem_cons.mpr ⟨⟨4, by decide, fst_of_eq rs298⟩,
  List.forall_mem_cons.mpr ⟨⟨5, by decide, fst_of_eq rs299⟩,
  tl30⟩⟩⟩⟩⟩⟩⟩⟩⟩⟩


lemma tl28 : ∀ s ∈ ([['Y', 'R', 'G', 'O'],
      ['Y', 'R', 'G', 'P'],
      ['Y', 'R', 'O', 'B'],
      ['Y', 'R', 'O', 'G'],
      ['Y', 'R', 'O', 'P'],
      ['Y', 'R', 'P', 'B'],
      ['Y', 'R', 'P', 'G'],
      ['Y', 'R', 'P', 'O'],
      ['Y', 'P', 'B', 'G'],
      ['Y', 'P', 'B', 'O'],
      ['Y', 'P', 'B', 'R'],
      ['Y', 'P', 'G', 'B'],
      ['Y', 'P', 'G', 'O'],
      ['Y', 'P', 'G', 'R'],
      ['Y', 'P', 'O', 'B'],
      ['Y', 'P', 'O', 'G'],
      ['Y', 'P', 'O', 'R'],
      ['Y', 'P', 'R', 'B'],
      ['Y', 'P', 'R', 'G'],
      ['Y', 'P', 'R', 'O'],
      ['P', 'B', 'G', 'O'],
      ['P', 'B', 'G', 'R'],
      ['P', 'B', 'G', 'Y'],
      ['P', 'B', 'O', 'G'],
      ['P', 'B', 'O', 'R'],
      ['P', 'B', 'O', 'Y'],
      ['P', 'B', 'R', 'G'],
      ['P', 'B', 'R', 'O'],
      ['P', 'B', 'R', 'Y'],
      ['P', 'B', 'Y', 'G'],
      ['P', 'B', 'Y', 'O'],
      ['P', 'B', 'Y', 'R'],
      ['P', 'G', 'B', 'O'],
      ['P', 'G', 'B', 'R'],
      ['P', 'G', 'B', 'Y'],
      ['P', 'G', 'O', 'B'],
      ['P', 'G', 'O', 'R'],
      ['P', 'G', 'O', 'Y'],
      ['P', 'G', 'R', 'B'],
      ['P', 'G', 'R', 'O'],
      ['P', 'G', 'R', 'Y'],
      ['P', 'G', 'Y', 'B'],
      ['P', 'G', 'Y', 'O'],
      ['P', 'G', 'Y', 'R'],
      ['P', 'O', 'B', 'G'],
      ['P', 'O', 'B', 'R'],
      ['P', 'O', 'B', 'Y'],
      ['P', 'O', 'G', 'B'],
      ['P', 'O', 'G', 'R'],
      ['P', 'O', 'G', 'Y'],
      ['P', 'O', 'R', 'B'],
      ['P', 'O', 'R', 'G'],
      ['P', 'O', 'R', 'Y'],
      ['P', 'O', 'Y', 'B'],
      ['P', 'O', 'Y', 'G'],
      ['P', 'O', 'Y', 'R'],
      ['P', 'R', 'B', 'G'],
      ['P', 'R', 'B', 'O'],
      ['P', 'R', 'B', 'Y'],
      ['P', 'R', 'G', 'B'],
      ['P', 'R', 'G', 'O'],
      ['P', 'R', 'G', 'Y'],
      ['P', 'R', 'O', 'B'],
      ['P', 'R', 'O', 'G'],
      ['P', 'R', 'O', 'Y'],
      ['P', 'R', 'Y', 'B'],
      ['P', 'R', 'Y', 'G'],
      ['P', 'R', 'Y', 'O'],
      ['P', 'Y', 'B', 'G'],
      ['P', 'Y', 'B', 'O'],
      ['P', 'Y', 'B', 'R'],
      ['P', 'Y', 'G', 'B'],
      ['P', 'Y', 'G', 'O'],
      ['P', 'Y', 'G', 'R'],
      ['P', 'Y', 'O', 'B'],
      ['P', 'Y', 'O', 'G'],
      ['P', 'Y', 'O', 'R'],
      ['P', 'Y', 'R', 'B'],
      ['P', 'Y', 'R', 'G'],
      ['P', 'Y', 'R', 'O']] : List Code),
    ∃ k : Nat, k ≤ 6 ∧ (loopRun (honest s) 7 none S0 []).1 = RunResult.solved s k :=
  List.forall_mem_cons.mpr ⟨⟨4, by decide, fst_of_eq rs280⟩,
  List.forall_mem_cons.mpr ⟨⟨5, by decide, fst_of_eq rs281⟩,
  List.forall_mem_cons.mpr ⟨⟨4, by decide, fst_of_eq rs282⟩,
  List.forall_mem_cons.mpr ⟨⟨5, by decide, fst_of_eq rs283⟩,
  List.forall_mem_cons.mpr ⟨⟨5, by decide, fst_of_eq rs284⟩,
  List.forall_mem_cons.mpr ⟨⟨5, by decide, fst_of_eq rs285⟩,
  List.forall_mem_cons.mpr ⟨⟨4, by decide, fst_of_eq rs286⟩,
  List.forall_mem_cons.mpr ⟨⟨5, by decide, fst_of_eq rs287⟩,
  List.forall_mem_cons.mpr ⟨⟨4, by decide, fst_of_eq rs288⟩,
  List.forall_mem_cons.mpr ⟨⟨4, by decide, fst_of_eq rs289⟩,
  tl29⟩⟩⟩⟩⟩⟩⟩⟩⟩⟩


lemma tl27 : ∀ s ∈ ([['Y', 'O', 'R', 'B'],
      ['Y', 'O', 'R', 'G'],
      ['Y', 'O', 'R', 'P'],
      ['Y', 'O', 'P', 'B'],
      ['Y', 'O', 'P', 'G'],
      ['Y', 'O', 'P', 'R'],
      ['Y', 'R', 'B', 'G'],
      ['Y', 'R', 'B', 'O'],
      ['Y', 'R', 'B', 'P'],
      ['Y', 'R', 'G', 'B'],
      ['Y', 'R', 'G', 'O'],
      ['Y', 'R', 'G', 'P'],
      ['Y', 'R', 'O', 'B'],
      ['Y', 'R', 'O', 'G'],
      ['Y', 'R', 'O', 'P'],
      ['Y', 'R', 'P', 'B'],
      ['Y', 'R', 'P', 'G'],
      ['Y', 'R', 'P', 'O'],
      ['Y', 'P', 'B', 'G'],
      ['Y', 'P', 'B', 'O'],
      ['Y', 'P', 'B', 'R'],
      ['Y', 'P', 'G', 'B'],
      ['Y', 'P', 'G', 'O'],
      ['Y', 'P', 'G', 'R'],
      ['Y', 'P', 'O', 'B'],
      ['Y', 'P', 'O', 'G'],
      ['Y', 'P', 'O', 'R'],
      ['Y', 'P', 'R', 'B'],
      ['Y', 'P', 'R', 'G'],
      ['Y', 'P', 'R', 'O'],
      ['P', 'B', 'G', 'O'],
      ['P', 'B', 'G', 'R'],
      ['P', 'B', 'G', 'Y'],
      ['P', 'B', 'O', 'G'],
      ['P', 'B', 'O', 'R'],
      ['P', 'B', 'O', 'Y'],
      ['P', 'B', 'R', 'G'],
      ['P', 'B', 'R', 'O'],
      ['P', 'B', 'R', 'Y'],
      ['P', 'B', 'Y', 'G'],
      ['P', 'B', 'Y', 'O'],
      ['P', 'B', 'Y', 'R'],
      ['P', 'G', 'B', 'O'],
      ['P', 'G', 'B', 'R'],
      ['P', 'G', 'B', 'Y'],
      ['P', 'G', 'O', 'B'],
      ['P', 'G', 'O', 'R'],
      ['P', 'G', 'O', 'Y'],
      ['P', 'G', 'R', 'B'],
      ['P', 'G', 'R', 'O'],
      ['P', 'G', 'R', 'Y'],
      ['P', 'G', 'Y', 'B'],
      ['P', 'G', 'Y', 'O'],
      ['P', 'G', 'Y', 'R'],
      ['P', 'O', 'B', 'G'],
      ['P', 'O', 'B', 'R'],
      ['P', 'O', 'B', 'Y'],
      ['P', 'O', 'G', 'B'],
      ['P', 'O', 'G', 'R'],
      ['P', 'O', 'G', 'Y'],
      ['P', 'O', 'R', 'B'],
      ['P', 'O', 'R', 'G'],
      ['P', 'O', 'R', 'Y'],
      ['P', 'O', 'Y', 'B'],
      ['P', 'O', 'Y', 'G'],
      ['P', 'O', 'Y', 'R'],
      ['P', 'R', 'B', 'G'],
      ['P', 'R', 'B', 'O'],
      ['P', 'R', 'B', 'Y'],
      ['P', 'R', 'G', 'B'],
      ['P', 'R', 'G', 'O'],
      ['P', 'R', 'G', 'Y'],
      ['P', 'R', 'O', 'B'],
      ['P', 'R', 'O', 'G'],
      ['P', 'R', 'O', 'Y'],
      ['P', 'R', 'Y', 'B'],
      ['P', 'R', 'Y', 'G'],
      ['P', 'R', 'Y', 'O'],
      ['P', 'Y', 'B', 'G'],
      ['P', 'Y', 'B', 'O'],
      ['P', 'Y', 'B', 'R'],
      ['P', 'Y', 'G', 'B'],
      ['P', 'Y', 'G', 'O'],
      ['P', 'Y', 'G', 'R'],
      ['P', 'Y', 'O', 'B'],
      ['P', 'Y', 'O', 'G'],
      ['P', 'Y', 'O', 'R'],
      ['P', 'Y', 'R', 'B'],
      ['P', 'Y', 'R', 'G'],
      ['P', 'Y', 'R', 'O']] : List Code),
    ∃ k : Nat, k ≤ 6 ∧ (loopRun (honest s) 7 none S0 []).1 = RunResult.solved s k :=
  List.forall_mem_cons.mpr ⟨⟨5, by decide, fst_of_eq rs270⟩,
  List.forall_mem_cons.mpr ⟨⟨4, by decide, fst_of_eq rs271⟩,
  List.forall_mem_cons.mpr ⟨⟨4, by decide, fst_of_eq rs272⟩,
  List.forall_mem_cons.mpr ⟨⟨5, by decide, fst_of_eq rs273⟩,
  List.forall_mem_cons.mpr ⟨⟨5, by decide, fst_of_eq rs274⟩,
  List.forall_mem_cons.mpr ⟨⟨5, by decide, fst_of_eq rs275⟩,
  List.forall_mem_cons.mpr ⟨⟨5, by decide, fst_of_eq rs276⟩,
  List.forall_mem_cons.mpr ⟨⟨5, by decide, fst_of_eq rs277⟩,
  List.forall_mem_cons.mpr ⟨⟨5, by decide, fst_of_eq rs278⟩,
  List.forall_mem_cons.mpr ⟨⟨5, by decide, fst_of_eq rs279⟩,
  tl28⟩⟩⟩⟩⟩⟩⟩⟩⟩⟩


lemma tl26 : ∀ s ∈ ([['Y', 'G', 'R', 'P'],
      ['Y', 'G', 'P', 'B'],
      ['Y', 'G', 'P', 'O'],
      ['Y', 'G', 'P', 'R'],
      ['Y', 'O', 'B', 'G'],
      ['Y', 'O', 'B', 'R'],
      ['Y', 'O', 'B', 'P'],
      ['Y', 'O', 'G', 'B'],
      ['Y', 'O', 'G', 'R'],
      ['Y', 'O', 'G', 'P'],
      ['Y', 'O', 'R', 'B'],
      ['Y', 'O', 'R', 'G'],
      ['Y', 'O', 'R', 'P'],
      ['Y', 'O', 'P', 'B'],
      ['Y', 'O', 'P', 'G'],
      ['Y', 'O', 'P', 'R'],
      ['Y', 'R', 'B', 'G'],
      ['Y', 'R', 'B', 'O'],
      ['Y', 'R', 'B', 'P'],
      ['Y', 'R', 'G', 'B'],
      ['Y', 'R', 'G', 'O'],
      ['Y', 'R', 'G', 'P'],
      ['Y', 'R', 'O', 'B'],
      ['Y', 'R', 'O', 'G'],
      ['Y', 'R', 'O', 'P'],
      ['Y', 'R', 'P', 'B'],
      ['Y', 'R', 'P', 'G'],
      ['Y', 'R', 'P', 'O'],
      ['Y', 'P', 'B', 'G'],
      ['Y', 'P', 'B', 'O'],
      ['Y', 'P', 'B', 'R'],
      ['Y', 'P', 'G', 'B'],
      ['Y', 'P', 'G', 'O'],
      ['Y', 'P', 'G', 'R'],
      ['Y', 'P', 'O', 'B'],
      ['Y', 'P', 'O', 'G'],
      ['Y', 'P', 'O', 'R'],
      ['Y', 'P', 'R', 'B'],
      ['Y', 'P', 'R', 'G'],
      ['Y', 'P', 'R', 'O'],
      ['P', 'B', 'G', 'O'],
      ['P', 'B', 'G', 'R'],
      ['P', 'B', 'G', 'Y'],
      ['P', 'B', 'O', 'G'],
      ['P', 'B', 'O', 'R'],
      ['P', 'B', 'O', 'Y'],
      ['P', 'B', 'R', 'G'],
      ['P', 'B', 'R', 'O'],
      ['P', 'B', 'R', 'Y'],
      ['P', 'B', 'Y', 'G'],
      ['P', 'B', 'Y', 'O'],
      ['P', 'B', 'Y', 'R'],
      ['P', 'G', 'B', 'O'],
      ['P', 'G', 'B', 'R'],
      ['P', 'G', 'B', 'Y'],
      ['P', 'G', 'O', 'B'],
      ['P', 'G', 'O', 'R'],
      ['P', 'G', 'O', 'Y'],
      ['P', 'G', 'R', 'B'],
      ['P', 'G', 'R', 'O'],
      ['P', 'G', 'R', 'Y'],
      ['P', 'G', 'Y', 'B'],
      ['P', 'G', 'Y', 'O'],
      ['P', 'G', 'Y', 'R'],
      ['P', 'O', 'B', 'G'],
      ['P', 'O', 'B', 'R'],
      ['P', 'O', 'B', 'Y'],
      ['P', 'O', 'G', 'B'],
      ['P', 'O', 'G', 'R'],
      ['P', 'O', 'G', 'Y'],
      ['P', 'O', 'R', 'B'],
      ['P', 'O', 'R', 'G'],
      ['P', 'O', 'R', 'Y'],
      ['P', 'O', 'Y', 'B'],
      ['P', 'O', 'Y', 'G'],
      ['P', 'O', 'Y', 'R'],
      ['P', 'R', 'B', 'G'],
      ['P', 'R', 'B', 'O'],
      ['P', 'R', 'B', 'Y'],
      ['P', 'R', 'G', 'B'],
      ['P', 'R', 'G', 'O'],
      ['P', 'R', 'G', 'Y'],
      ['P', 'R', 'O', 'B'],
      ['P', 'R', 'O', 'G'],
      ['P', 'R', 'O', 'Y'],
      ['P', 'R', 'Y', 'B'],
      ['P', 'R', 'Y', 'G'],
      ['P', 'R', 'Y', 'O'],
      ['P', 'Y', 'B', 'G'],
      ['P', 'Y', 'B', 'O'],
      ['P', 'Y', 'B', 'R'],
      ['P', 'Y', 'G', 'B'],
      ['P', 'Y', 'G', 'O'],
      ['P', 'Y', 'G', 'R'],
      ['P', 'Y', 'O', 'B'],
      ['P', 'Y', 'O', 'G'],
      ['P', 'Y', 'O', 'R'],
      ['P', 'Y', 'R', 'B'],
      ['P', 'Y', 'R', 'G'],
      ['P', 'Y', 'R', 'O']] : List Code),
    ∃ k : Nat, k ≤ 6 ∧ (loopRun (honest s) 7 none S0 []).1 = RunResult.solved s k :=
  List.forall_mem_cons.mpr ⟨⟨4, by decide, fst_of_eq rs260⟩,
  List.forall_mem_cons.mpr ⟨⟨5, by decide, fst_of_eq rs261⟩,
  List.forall_mem_cons.mpr ⟨⟨4, by decide, fst_of_eq rs262⟩,
  List.forall_mem_cons.mpr ⟨⟨4, by decide, fst_of_eq rs263⟩,
  List.forall_mem_cons.mpr ⟨⟨4, by decide, fst_of_eq rs264⟩,
  List.forall_mem_cons.mpr ⟨⟨5, by decide, fst_of_eq rs265⟩,
  List.forall_mem_cons.mpr ⟨⟨5, by decide, fst_of_eq rs266⟩,
  List.forall_mem_cons.mpr ⟨⟨5, by decide, fst_of_eq rs267⟩,
  List.forall_mem_cons.mpr ⟨⟨5, by decide, fst_of_eq rs268⟩,
  List.forall_mem_cons.mpr ⟨⟨4, by decide, fst_of_eq rs269⟩,
  tl27⟩⟩⟩⟩⟩⟩⟩⟩⟩⟩


lemma tl25 : ∀ s ∈ ([['Y', 'B', 'P', 'O'],
      ['Y', 'B', 'P', 'R'],
      ['Y', 'G', 'B', 'O'],
      ['Y', 'G', 'B', 'R'],
      ['Y', 'G', 'B', 'P'],
      ['Y', 'G', 'O', 'B'],
      ['Y', 'G', 'O', 'R'],
      ['Y', 'G', 'O', 'P'],
      ['Y', 'G', 'R', 'B'],
      ['Y', 'G', 'R', 'O'],
      ['Y', 'G', 'R', 'P'],
      ['Y', 'G', 'P', 'B'],
      ['Y', 'G', 'P', 'O'],
      ['Y', 'G', 'P', 'R'],
      ['Y', 'O', 'B', 'G'],
      ['Y', 'O', 'B', 'R'],
      ['Y', 'O', 'B', 'P'],
      ['Y', 'O', 'G', 'B'],
      ['Y', 'O', 'G', 'R'],
      ['Y', 'O', 'G', 'P'],
      ['Y', 'O', 'R', 'B'],
      ['Y', 'O', 'R', 'G'],
      ['Y', 'O', 'R', 'P'],
      ['Y', 'O', 'P', 'B'],
      ['Y', 'O', 'P', 'G'],
      ['Y', 'O', 'P', 'R'],
      ['Y', 'R', 'B', 'G'],
      ['Y', 'R', 'B', 'O'],
      ['Y', 'R', 'B', 'P'],
      ['Y', 'R', 'G', 'B'],
      ['Y', 'R', 'G', 'O'],
      ['Y', 'R', 'G', 'P'],
      ['Y', 'R', 'O', 'B'],
      ['Y', 'R', 'O', 'G'],
      ['Y', 'R', 'O', 'P'],
      ['Y', 'R', 'P', 'B'],
      ['Y', 'R', 'P', 'G'],
      ['Y', 'R', 'P', 'O'],
      ['Y', 'P', 'B', 'G'],
      ['Y', 'P', 'B', 'O'],
      ['Y', 'P', 'B', 'R'],
      ['Y', 'P', 'G', 'B'],
      ['Y', 'P', 'G', 'O'],
      ['Y', 'P', 'G', 'R'],
      ['Y', 'P', 'O', 'B'],
      ['Y', 'P', 'O', 'G'],
      ['Y', 'P', 'O', 'R'],
      ['Y', 'P', 'R', 'B'],
      ['Y', 'P', 'R', 'G'],
      ['Y', 'P', 'R', 'O'],
      ['P', 'B', 'G', 'O'],
      ['P', 'B', 'G', 'R'],
      ['P', 'B', 'G', 'Y'],
      ['P', 'B', 'O', 'G'],
      ['P', 'B', 'O', 'R'],
      ['P', 'B', 'O', 'Y'],
      ['P', 'B', 'R', 'G'],
      ['P', 'B', 'R', 'O'],
      ['P', 'B', 'R', 'Y'],
      ['P', 'B', 'Y', 'G'],
      ['P', 'B', 'Y', 'O'],
      ['P', 'B', 'Y', 'R'],
      ['P', 'G', 'B', 'O'],
      ['P', 'G', 'B', 'R'],
      ['P', 'G', 'B', 'Y'],
      ['P', 'G', 'O', 'B'],
      ['P', 'G', 'O', 'R'],
      ['P', 'G', 'O', 'Y'],
      ['P', 'G', 'R', 'B'],
      ['P', 'G', 'R', 'O'],
      ['P', 'G', 'R', 'Y'],
      ['P', 'G', 'Y', 'B'],
      ['P', 'G', 'Y', 'O'],
      ['P', 'G', 'Y', 'R'],
      ['P', 'O', 'B', 'G'],
      ['P', 'O', 'B', 'R'],
      ['P', 'O', 'B', 'Y'],
      ['P', 'O', 'G', 'B'],
      ['P', 'O', 'G', 'R'],
      ['P', 'O', 'G', 'Y'],
      ['P', 'O', 'R', 'B'],
      ['P', 'O', 'R', 'G'],
      ['P', 'O', 'R', 'Y'],
      ['P', 'O', 'Y', 'B'],
      ['P', 'O', 'Y', 'G'],
      ['P', 'O', 'Y', 'R'],
      ['P', 'R', 'B', 'G'],
      ['P', 'R', 'B', 'O'],
      ['P', 'R', 'B', 'Y'],
      ['P', 'R', 'G', 'B'],
      ['P', 'R', 'G', 'O'],
      ['P', 'R', 'G', 'Y'],
      ['P', 'R', 'O', 'B'],
      ['P', 'R', 'O', 'G'],
      ['P', 'R', 'O', 'Y'],
      ['P', 'R', 'Y', 'B'],
      ['P', 'R', 'Y', 'G'],
      ['P', 'R', 'Y', 'O'],
      ['P', 'Y', 'B', 'G'],
      ['P', 'Y', 'B', 'O'],
      ['P', 'Y', 'B', 'R'],
      ['P', 'Y', 'G', 'B'],
      ['P', 'Y', 'G', 'O'],
      ['P', 'Y', 'G', 'R'],
      ['P', 'Y', 'O', 'B'],
      ['P', 'Y', 'O', 'G'],
      ['P', 'Y', 'O', 'R'],
      ['P', 'Y', 'R', 'B'],
      ['P', 'Y', 'R', 'G'],
      ['P', 'Y', 'R', 'O']] : List Code),
    ∃ k : Nat, k ≤ 6 ∧ (loopRun (honest s) 7 none S0 []).1 = RunResult.solved s k :=
  List.forall_mem_cons.mpr ⟨⟨5, by decide, fst_of_eq rs250⟩,
  List.forall_mem_cons.mpr ⟨⟨4, by decide, fst_of_eq rs251⟩,
  List.forall_mem_cons.mpr ⟨⟨5, by decide, fst_of_eq rs252⟩,
  List.forall_mem_cons.mpr ⟨⟨4, by decide, fst_of_eq rs253⟩,
  List.forall_mem_cons.mpr ⟨⟨4, by decide, fst_of_eq rs254⟩,
  List.forall_mem_cons.mpr ⟨⟨4, by decide, fst_of_eq rs255⟩,
  List.forall_mem_cons.mpr ⟨⟨5, by decide, fst_of_eq rs256⟩,
  List.forall_mem_cons.mpr ⟨⟨4, by decide, fst_of_eq rs257⟩,
  List.forall_mem_cons.mpr ⟨⟨5, by decide, fst_of_eq rs258⟩,
  List.forall_mem_cons.mpr ⟨⟨4, by decide, fst_of_eq rs259⟩,
  tl26⟩⟩⟩⟩⟩⟩⟩⟩⟩⟩


lemma tl24 : ∀ s ∈ ([['Y', 'B', 'G', 'O'],
      ['Y', 'B', 'G', 'R'],
      ['Y', 'B', 'G', 'P'],
      ['Y', 'B', 'O', 'G'],
      ['Y', 'B', 'O', 'R'],
      ['Y', 'B', 'O', 'P'],
      ['Y', 'B', 'R', 'G'],
      ['Y', 'B', 'R', 'O'],
      ['Y', 'B', 'R', 'P'],
      ['Y', 'B', 'P', 'G'],
      ['Y', 'B', 'P', 'O'],
      ['Y', 'B', 'P', 'R'],
      ['Y', 'G', 'B', 'O'],
      ['Y', 'G', 'B', 'R'],
      ['Y', 'G', 'B', 'P'],
      ['Y', 'G', 'O', 'B'],
      ['Y', 'G', 'O', 'R'],
      ['Y', 'G', 'O', 'P'],
      ['Y', 'G', 'R', 'B'],
      ['Y', 'G', 'R', 'O'],
      ['Y', 'G', 'R', 'P'],
      ['Y', 'G', 'P', 'B'],
      ['Y', 'G', 'P', 'O'],
      ['Y', 'G', 'P', 'R'],
      ['Y', 'O', 'B', 'G'],
      ['Y', 'O', 'B', 'R'],
      ['Y', 'O', 'B', 'P'],
      ['Y', 'O', 'G', 'B'],
      ['Y', 'O', 'G', 'R'],
      ['Y', 'O', 'G', 'P'],
      ['Y', 'O', 'R', 'B'],
      ['Y', 'O', 'R', 'G'],
      ['Y', 'O', 'R', 'P'],
      ['Y', 'O', 'P', 'B'],
      ['Y', 'O', 'P', 'G'],
      ['Y', 'O', 'P', 'R'],
      ['Y', 'R', 'B', 'G'],
      ['Y', 'R', 'B', 'O'],
      ['Y', 'R', 'B', 'P'],
      ['Y', 'R', 'G', 'B'],
      ['Y', 'R', 'G', 'O'],
      ['Y', 'R', 'G', 'P'],
      ['Y', 'R', 'O', 'B'],
      ['Y', 'R', 'O', 'G'],
      ['Y', 'R', 'O', 'P'],
      ['Y', 'R', 'P', 'B'],
      ['Y', 'R', 'P', 'G'],
      ['Y', 'R', 'P', 'O'],
      ['Y', 'P', 'B', 'G'],
      ['Y', 'P', 'B', 'O'],
      ['Y', 'P', 'B', 'R'],
      ['Y', 'P', 'G', 'B'],
      ['Y', 'P', 'G', 'O'],
      ['Y', 'P', 'G', 'R'],
      ['Y', 'P', 'O', 'B'],
      ['Y', 'P', 'O', 'G'],
      ['Y', 'P', 'O', 'R'],
      ['Y', 'P', 'R', 'B'],
      ['Y', 'P', 'R', 'G'],
      ['Y', 'P', 'R', 'O'],
      ['P', 'B', 'G', 'O'],
      ['P', 'B', 'G', 'R'],
      ['P', 'B', 'G', 'Y'],
      ['P', 'B', 'O', 'G'],
      ['P', 'B', 'O', 'R'],
      ['P', 'B', 'O', 'Y'],
      ['P', 'B', 'R', 'G'],
      ['P', 'B', 'R', 'O'],
      ['P', 'B', 'R', 'Y'],
      ['P', 'B', 'Y', 'G'],
      ['P', 'B', 'Y', 'O'],
      ['P', 'B', 'Y', 'R'],
      ['P', 'G', 'B', 'O'],
      ['P', 'G', 'B', 'R'],
      ['P', 'G', 'B', 'Y'],
      ['P', 'G', 'O', 'B'],
      ['P', 'G', 'O', 'R'],
      ['P', 'G', 'O', 'Y'],
      ['P', 'G', 'R', 'B'],
      ['P', 'G', 'R', 'O'],
      ['P', 'G', 'R', 'Y'],
      ['P', 'G', 'Y', 'B'],
      ['P', 'G', 'Y', 'O'],
      ['P', 'G', 'Y', 'R'],
      ['P', 'O', 'B', 'G'],
      ['P', 'O', 'B', 'R'],
      ['P', 'O', 'B', 'Y'],
      ['P', 'O', 'G', 'B'],
      ['P', 'O', 'G', 'R'],
      ['P', 'O', 'G', 'Y'],
      ['P', 'O', 'R', 'B'],
      ['P', 'O', 'R', 'G'],
      ['P', 'O', 'R', 'Y'],
      ['P', 'O', 'Y', 'B'],
      ['P', 'O', 'Y', 'G'],
      ['P', 'O', 'Y', 'R'],
      ['P', 'R', 'B', 'G'],
      ['P', 'R', 'B', 'O'],
      ['P', 'R', 'B', 'Y'],
      ['P', 'R', 'G', 'B'],
      ['P', 'R', 'G', 'O'],
      ['P', 'R', 'G', 'Y'],
      ['P', 'R', 'O', 'B'],
      ['P', 'R', 'O', 'G'],
      ['P', 'R', 'O', 'Y'],
      ['P', 'R', 'Y', 'B'],
      ['P', 'R', 'Y', 'G'],
      ['P', 'R', 'Y', 'O'],
      ['P', 'Y', 'B', 'G'],
      ['P', 'Y', 'B', 'O'],
      ['P', 'Y', 'B', 'R'],
      ['P', 'Y', 'G', 'B'],
      ['P', 'Y', 'G', 'O'],
      ['P', 'Y', 'G', 'R'],
      ['P', 'Y', 'O', 'B'],
      ['P', 'Y', 'O', 'G'],
      ['P', 'Y', 'O', 'R'],
      ['P', 'Y', 'R', 'B'],
      ['P', 'Y', 'R', 'G'],
      ['P', 'Y', 'R', 'O']] : List Code),
    ∃ k : Nat, k ≤ 6 ∧ (loopRun (honest s) 7 none S0 []).1 = RunResult.solved s k :=
  List.forall_mem_cons.mpr ⟨⟨5, by decide, fst_of_eq rs240⟩,
  List.forall_mem_cons.mpr ⟨⟨5, by decide, fst_of_eq rs241⟩,
  List.forall_mem_cons.mpr ⟨⟨5, by decide, fst_of_eq rs242⟩,
  List.forall_mem_cons.mpr ⟨⟨5, by decide, fst_of_eq rs243⟩,
  List.forall_mem_cons.mpr ⟨⟨4, by decide, fst_of_eq rs244⟩,
  List.forall_mem_cons.mpr ⟨⟨4, by decide, fst_of_eq rs245⟩,
  List.forall_mem_cons.mpr ⟨⟨5, by decide, fst_of_eq rs246⟩,
  List.forall_mem_cons.mpr ⟨⟨5, by decide, fst_of_eq rs247⟩,
  List.forall_mem_cons.mpr ⟨⟨5, by decide, fst_of_eq rs248⟩,
  List.forall_mem_cons.mpr ⟨⟨4, by decide, fst_of_eq rs249⟩,
  tl25⟩⟩⟩⟩⟩⟩⟩⟩⟩⟩


lemma tl23 : ∀ s ∈ ([['R', 'P', 'B', 'Y'],
      ['R', 'P', 'G', 'B'],
      ['R', 'P', 'G', 'O'],
      ['R', 'P', 'G', 'Y'],
      ['R', 'P', 'O', 'B'],
      ['R', 'P', 'O', 'G'],
      ['R', 'P', 'O', 'Y'],
      ['R', 'P', 'Y', 'B'],
      ['R', 'P', 'Y', 'G'],
      ['R', 'P', 'Y', 'O'],
      ['Y', 'B', 'G', 'O'],
      ['Y', 'B', 'G', 'R'],
      ['Y', 'B', 'G', 'P'],
      ['Y', 'B', 'O', 'G'],
      ['Y', 'B', 'O', 'R'],
      ['Y', 'B', 'O', 'P'],
      ['Y', 'B', 'R', 'G'],
      ['Y', 'B', 'R', 'O'],
      ['Y', 'B', 'R', 'P'],
      ['Y', 'B', 'P', 'G'],
      ['Y', 'B', 'P', 'O'],
      ['Y', 'B', 'P', 'R'],
      ['Y', 'G', 'B', 'O'],
      ['Y', 'G', 'B', 'R'],
      ['Y', 'G', 'B', 'P'],
      ['Y', 'G', 'O', 'B'],
      ['Y', 'G', 'O', 'R'],
      ['Y', 'G', 'O', 'P'],
      ['Y', 'G', 'R', 'B'],
      ['Y', 'G', 'R', 'O'],
      ['Y', 'G', 'R', 'P'],
      ['Y', 'G', 'P', 'B'],
      ['Y', 'G', 'P', 'O'],
      ['Y', 'G', 'P', 'R'],
      ['Y', 'O', 'B', 'G'],
      ['Y', 'O', 'B', 'R'],
      ['Y', 'O', 'B', 'P'],
      ['Y', 'O', 'G', 'B'],
      ['Y', 'O', 'G', 'R'],
      ['Y', 'O', 'G', 'P'],
      ['Y', 'O', 'R', 'B'],
      ['Y', 'O', 'R', 'G'],
      ['Y', 'O', 'R', 'P'],
      ['Y', 'O', 'P', 'B'],
      ['Y', 'O', 'P', 'G'],
      ['Y', 'O', 'P', 'R'],
      ['Y', 'R', 'B', 'G'],
      ['Y', 'R', 'B', 'O'],
      ['Y', 'R', 'B', 'P'],
      ['Y', 'R', 'G', 'B'],
      ['Y', 'R', 'G', 'O'],
      ['Y', 'R', 'G', 'P'],
      ['Y', 'R', 'O', 'B'],
      ['Y', 'R', 'O', 'G'],
      ['Y', 'R', 'O', 'P'],
      ['Y', 'R', 'P', 'B'],
      ['Y', 'R', 'P', 'G'],
      ['Y', 'R', 'P', 'O'],
      ['Y', 'P', 'B', 'G'],
      ['Y', 'P', 'B', 'O'],
      ['Y', 'P', 'B', 'R'],
      ['Y', 'P', 'G', 'B'],
      ['Y', 'P', 'G', 'O'],
      ['Y', 'P', 'G', 'R'],
      ['Y', 'P', 'O', 'B'],
      ['Y', 'P', 'O', 'G'],
      ['Y', 'P', 'O', 'R'],
      ['Y', 'P', 'R', 'B'],
      ['Y', 'P', 'R', 'G'],
      ['Y', 'P', 'R', 'O'],
      ['P', 'B', 'G', 'O'],
      ['P', 'B', 'G', 'R'],
      ['P', 'B', 'G', 'Y'],
      ['P', 'B', 'O', 'G'],
      ['P', 'B', 'O', 'R'],
      ['P', 'B', 'O', 'Y'],
      ['P', 'B', 'R', 'G'],
      ['P', 'B', 'R', 'O'],
      ['P', 'B', 'R', 'Y'],
      ['P', 'B', 'Y', 'G'],
      ['P', 'B', 'Y', 'O'],
      ['P', 'B', 'Y', 'R'],
      ['P', 'G', 'B', 'O'],
      ['P', 'G', 'B', 'R'],
      ['P', 'G', 'B', 'Y'],
      ['P', 'G', 'O', 'B'],
      ['P', 'G', 'O', 'R'],
      ['P', 'G', 'O', 'Y'],
      ['P', 'G', 'R', 'B'],
      ['P', 'G', 'R', 'O'],
      ['P', 'G', 'R', 'Y'],
      ['P', 'G', 'Y', 'B'],
      ['P', 'G', 'Y', 'O'],
      ['P', 'G', 'Y', 'R'],
      ['P', 'O', 'B', 'G'],
      ['P', 'O', 'B', 'R'],
      ['P', 'O', 'B', 'Y'],
      ['P', 'O', 'G', 'B'],
      ['P', 'O', 'G', 'R'],
      ['P', 'O', 'G', 'Y'],
      ['P', 'O', 'R', 'B'],
      ['P', 'O', 'R', 'G'],
      ['P', 'O', 'R', 'Y'],
      ['P', 'O', 'Y', 'B'],
      ['P', 'O', 'Y', 'G'],
      ['P', 'O', 'Y', 'R'],
      ['P', 'R', 'B', 'G'],
      ['P', 'R', 'B', 'O'],
      ['P', 'R', 'B', 'Y'],
      ['P', 'R', 'G', 'B'],
      ['P', 'R', 'G', 'O'],
      ['P', 'R', 'G', 'Y'],
      ['P', 'R', 'O', 'B'],
      ['P', 'R', 'O', 'G'],
      ['P', 'R', 'O', 'Y'],
      ['P', 'R', 'Y', 'B'],
      ['P', 'R', 'Y', 'G'],
      ['P', 'R', 'Y', 'O'],
      ['P', 'Y', 'B', 'G'],
      ['P', 'Y', 'B', 'O'],
      ['P', 'Y', 'B', 'R'],
      ['P', 'Y', 'G', 'B'],
      ['P', 'Y', 'G', 'O'],
      ['P', 'Y', 'G', 'R'],
      ['P', 'Y', 'O', 'B'],
      ['P', 'Y', 'O', 'G'],
      ['P', 'Y', 'O', 'R'],
      ['P', 'Y', 'R', 'B'],
      ['P', 'Y', 'R', 'G'],
      ['P', 'Y', 'R', 'O']] : List Code),
    ∃ k : Nat, k ≤ 6 ∧ (loopRun (honest s) 7 none S0 []).1 = RunResult.solved s k :=
  List.forall_mem_cons.mpr ⟨⟨4, by decide, fst_of_eq rs230⟩,
  List.forall_mem_cons.mpr ⟨⟨5, by decide, fst_of_eq rs231⟩,
  List.forall_mem_cons.mpr ⟨⟨4, by decide, fst_of_eq rs232⟩,
  List.forall_mem_cons.mpr ⟨⟨3, by decide, fst_of_eq rs233⟩,
  List.forall_mem_cons.mpr ⟨⟨5, by decide, fst_of_eq rs234⟩,
  List.forall_mem_cons.mpr ⟨⟨5, by decide, fst_of_eq rs235⟩,
  List.forall_mem_cons.mpr ⟨⟨4, by decide, fst_of_eq rs236⟩,
  List.forall_mem_cons.mpr ⟨⟨4, by decide, fst_of_eq rs237⟩,
  List.forall_mem_cons.mpr ⟨⟨4, by decide, fst_of_eq rs238⟩,
  List.forall_mem_cons.mpr ⟨⟨4, by decide, fst_of_eq rs239⟩,
  tl24⟩⟩⟩⟩⟩⟩⟩⟩⟩⟩


lemma tl22 : ∀ s ∈ ([['R', 'Y', 'G', 'O'],
      ['R', 'Y', 'G', 'P'],
      ['R', 'Y', 'O', 'B'],
      ['R', 'Y', 'O', 'G'],
      ['R', 'Y', 'O', 'P'],
      ['R', 'Y', 'P', 'B'],
      ['R', 'Y', 'P', 'G'],
      ['R', 'Y', 'P', 'O'],
      ['R', 'P', 'B', 'G'],
      ['R', 'P', 'B', 'O'],
      ['R', 'P', 'B', 'Y'],
      ['R', 'P', 'G', 'B'],
      ['R', 'P', 'G', 'O'],
      ['R', 'P', 'G', 'Y'],
      ['R', 'P', 'O', 'B'],
      ['R', 'P', 'O', 'G'],
      ['R', 'P', 'O', 'Y'],
      ['R', 'P', 'Y', 'B'],
      ['R', 'P', 'Y', 'G'],
      ['R', 'P', 'Y', 'O'],
      ['Y', 'B', 'G', 'O'],
      ['Y', 'B', 'G', 'R'],
      ['Y', 'B', 'G', 'P'],
      ['Y', 'B', 'O', 'G'],
      ['Y', 'B', 'O', 'R'],
      ['Y', 'B', 'O', 'P'],
      ['Y', 'B', 'R', 'G'],
      ['Y', 'B', 'R', 'O'],
      ['Y', 'B', 'R', 'P'],
      ['Y', 'B', 'P', 'G'],
      ['Y', 'B', 'P', 'O'],
      ['Y', 'B', 'P', 'R'],
      ['Y', 'G', 'B', 'O'],
      ['Y', 'G', 'B', 'R'],
      ['Y', 'G', 'B', 'P'],
      ['Y', 'G', 'O', 'B'],
      ['Y', 'G', 'O', 'R'],
      ['Y', 'G', 'O', 'P'],
      ['Y', 'G', 'R', 'B'],
      ['Y', 'G', 'R', 'O'],
      ['Y', 'G', 'R', 'P'],
      ['Y', 'G', 'P', 'B'],
      ['Y', 'G', 'P', 'O'],
      ['Y', 'G', 'P', 'R'],
      ['Y', 'O', 'B', 'G'],
      ['Y', 'O', 'B', 'R'],
      ['Y', 'O', 'B', 'P'],
      ['Y', 'O', 'G', 'B'],
      ['Y', 'O', 'G', 'R'],
      ['Y', 'O', 'G', 'P'],
      ['Y', 'O', 'R', 'B'],
      ['Y', 'O', 'R', 'G'],
      ['Y', 'O', 'R', 'P'],
      ['Y', 'O', 'P', 'B'],
      ['Y', 'O', 'P', 'G'],
      ['Y', 'O', 'P', 'R'],
      ['Y', 'R', 'B', 'G'],
      ['Y', 'R', 'B', 'O'],
      ['Y', 'R', 'B', 'P'],
      ['Y', 'R', 'G', 'B'],
      ['Y', 'R', 'G', 'O'],
      ['Y', 'R', 'G', 'P'],
      ['Y', 'R', 'O', 'B'],
      ['Y', 'R', 'O', 'G'],
      ['Y', 'R', 'O', 'P'],
      ['Y', 'R', 'P', 'B'],
      ['Y', 'R', 'P', 'G'],
      ['Y', 'R', 'P', 'O'],
      ['Y', 'P', 'B', 'G'],
      ['Y', 'P', 'B', 'O'],
      ['Y', 'P', 'B', 'R'],
      ['Y', 'P', 'G', 'B'],
      ['Y', 'P', 'G', 'O'],
      ['Y', 'P', 'G', 'R'],
      ['Y', 'P', 'O', 'B'],
      ['Y', 'P', 'O', 'G'],
      ['Y', 'P', 'O', 'R'],
      ['Y', 'P', 'R', 'B'],
      ['Y', 'P', 'R', 'G'],
      ['Y', 'P', 'R', 'O'],
      ['P', 'B', 'G', 'O'],
      ['P', 'B', 'G', 'R'],
      ['P', 'B', 'G', 'Y'],
      ['P', 'B', 'O', 'G'],
      ['P', 'B', 'O', 'R'],
      ['P', 'B', 'O', 'Y'],
      ['P', 'B', 'R', 'G'],
      ['P', 'B', 'R', 'O'],
      ['P', 'B', 'R', 'Y'],
      ['P', 'B', 'Y', 'G'],
      ['P', 'B', 'Y', 'O'],
      ['P', 'B', 'Y', 'R'],
      ['P', 'G', 'B', 'O'],
      ['P', 'G', 'B', 'R'],
      ['P', 'G', 'B', 'Y'],
      ['P', 'G', 'O', 'B'],
      ['P', 'G', 'O', 'R'],
      ['P', 'G', 'O', 'Y'],
      ['P', 'G', 'R', 'B'],
      ['P', 'G', 'R', 'O'],
      ['P', 'G', 'R', 'Y'],
      ['P', 'G', 'Y', 'B'],
      ['P', 'G', 'Y', 'O'],
      ['P', 'G', 'Y', 'R'],
      ['P', 'O', 'B', 'G'],
      ['P', 'O', 'B', 'R'],
      ['P', 'O', 'B', 'Y'],
      ['P', 'O', 'G', 'B'],
      ['P', 'O', 'G', 'R'],
      ['P', 'O', 'G', 'Y'],
      ['P', 'O', 'R', 'B'],
      ['P', 'O', 'R', 'G'],
      ['P', 'O', 'R', 'Y'],
      ['P', 'O', 'Y', 'B'],
      ['P', 'O', 'Y', 'G'],
      ['P', 'O', 'Y', 'R'],
      ['P', 'R', 'B', 'G'],
      ['P', 'R', 'B', 'O'],
      ['P', 'R', 'B', 'Y'],
      ['P', 'R', 'G', 'B'],
      ['P', 'R', 'G', 'O'],
      ['P', 'R', 'G', 'Y'],
      ['P', 'R', 'O', 'B'],
      ['P', 'R', 'O', 'G'],
      ['P', 'R', 'O', 'Y'],
      ['P', 'R', 'Y', 'B'],
      ['P', 'R', 'Y', 'G'],
      ['P', 'R', 'Y', 'O'],
      ['P', 'Y', 'B', 'G'],
      ['P', 'Y', 'B', 'O'],
      ['P', 'Y', 'B', 'R'],
      ['P', 'Y', 'G', 'B'],
      ['P', 'Y', 'G', 'O'],
      ['P', 'Y', 'G', 'R'],
      ['P', 'Y', 'O', 'B'],
      ['P', 'Y', 'O', 'G'],
      ['P', 'Y', 'O', 'R'],
      ['P', 'Y', 'R', 'B'],
      ['P', 'Y', 'R', 'G'],
      ['P', 'Y', 'R', 'O']] : List Code),
    ∃ k : Nat, k ≤ 6 ∧ (loopRun (honest s) 7 none S0 []).1 = RunResult.solved s k :=
  List.forall_mem_cons.mpr ⟨⟨4, by decide, fst_of_eq rs220⟩,
  List.forall_mem_cons.mpr ⟨⟨5, by decide, fst_of_eq rs221⟩,
  List.forall_mem_cons.mpr ⟨⟨4, by decide, fst_of_eq rs222⟩,
  List.forall_mem_cons.mpr ⟨⟨4, by decide, fst_of_eq rs223⟩,
  List.forall_mem_cons.mpr ⟨⟨4, by decide, fst_of_eq rs224⟩,
  List.forall_mem_cons.mpr ⟨⟨5, by decide, fst_of_eq rs225⟩,
  List.forall_mem_cons.mpr ⟨⟨4, by decide, fst_of_eq rs226⟩,
  List.forall_mem_cons.mpr ⟨⟨5, by decide, fst_of_eq rs227⟩,
  List.forall_mem_cons.mpr ⟨⟨5, by decide, fst_of_eq rs228⟩,
  List.forall_mem_cons.mpr ⟨⟨4, by decide, fst_of_eq rs229⟩,
  tl23⟩⟩⟩⟩⟩⟩⟩⟩⟩⟩


lemma tl21 : ∀ s ∈ ([['R', 'O', 'Y', 'B'],
      ['R', 'O', 'Y', 'G'],
      ['R', 'O', 'Y', 'P'],
      ['R', 'O', 'P', 'B'],
      ['R', 'O', 'P', 'G'],
      ['R', 'O', 'P', 'Y'],
      ['R', 'Y', 'B', 'G'],
      ['R', 'Y', 'B', 'O'],
      ['R', 'Y', 'B', 'P'],
      ['R', 'Y', 'G', 'B'],
      ['R', 'Y', 'G', 'O'],
      ['R', 'Y', 'G', 'P'],
      ['R', 'Y', 'O', 'B'],
      ['R', 'Y', 'O', 'G'],
      ['R', 'Y', 'O', 'P'],
      ['R', 'Y', 'P', 'B'],
      ['R', 'Y', 'P', 'G'],
      ['R', 'Y', 'P', 'O'],
      ['R', 'P', 'B', 'G'],
      ['R', 'P', 'B', 'O'],
      ['R', 'P', 'B', 'Y'],
      ['R', 'P', 'G', 'B'],
      ['R', 'P', 'G', 'O'],
      ['R', 'P', 'G', 'Y'],
      ['R', 'P', 'O', 'B'],
      ['R', 'P', 'O', 'G'],
      ['R', 'P', 'O', 'Y'],
      ['R', 'P', 'Y', 'B'],
      ['R', 'P', 'Y', 'G'],
      ['R', 'P', 'Y', 'O'],
      ['Y', 'B', 'G', 'O'],
      ['Y', 'B', 'G', 'R'],
      ['Y', 'B', 'G', 'P'],
      ['Y', 'B', 'O', 'G'],
      ['Y', 'B', 'O', 'R'],
      ['Y', 'B', 'O', 'P'],
      ['Y', 'B', 'R', 'G'],
      ['Y', 'B', 'R', 'O'],
      ['Y', 'B', 'R', 'P'],
      ['Y', 'B', 'P', 'G'],
      ['Y', 'B', 'P', 'O'],
      ['Y', 'B', 'P', 'R'],
      ['Y', 'G', 'B', 'O'],
      ['Y', 'G', 'B', 'R'],
      ['Y', 'G', 'B', 'P'],
      ['Y', 'G', 'O', 'B'],
      ['Y', 'G', 'O', 'R'],
      ['Y', 'G', 'O', 'P'],
      ['Y', 'G', 'R', 'B'],
      ['Y', 'G', 'R', 'O'],
      ['Y', 'G', 'R', 'P'],
      ['Y', 'G', 'P', 'B'],
      ['Y', 'G', 'P', 'O'],
      ['Y', 'G', 'P', 'R'],
      ['Y', 'O', 'B', 'G'],
      ['Y', 'O', 'B', 'R'],
      ['Y', 'O', 'B', 'P'],
      ['Y', 'O', 'G', 'B'],
      ['Y', 'O', 'G', 'R'],
      ['Y', 'O', 'G', 'P'],
      ['Y', 'O', 'R', 'B'],
      ['Y', 'O', 'R', 'G'],
      ['Y', 'O', 'R', 'P'],
      ['Y', 'O', 'P', 'B'],
      ['Y', 'O', 'P', 'G'],
      ['Y', 'O', 'P', 'R'],
      ['Y', 'R', 'B', 'G'],
      ['Y', 'R', 'B', 'O'],
      ['Y', 'R', 'B', 'P'],
      ['Y', 'R', 'G', 'B'],
      ['Y', 'R', 'G', 'O'],
      ['Y', 'R', 'G', 'P'],
      ['Y', 'R', 'O', 'B'],
      ['Y', 'R', 'O', 'G'],
      ['Y', 'R', 'O', 'P'],
      ['Y', 'R', 'P', 'B'],
      ['Y', 'R', 'P', 'G'],
      ['Y', 'R', 'P', 'O'],
      ['Y', 'P', 'B', 'G'],
      ['Y', 'P', 'B', 'O'],
      ['Y', 'P', 'B', 'R'],
      ['Y', 'P', 'G', 'B'],
      ['Y', 'P', 'G', 'O'],
      ['Y', 'P', 'G', 'R'],
      ['Y', 'P', 'O', 'B'],
      ['Y', 'P', 'O', 'G'],
      ['Y', 'P', 'O', 'R'],
      ['Y', 'P', 'R', 'B'],
      ['Y', 'P', 'R', 'G'],
      ['Y', 'P', 'R', 'O'],
      ['P', 'B', 'G', 'O'],
      ['P', 'B', 'G', 'R'],
      ['P', 'B', 'G', 'Y'],
      ['P', 'B', 'O', 'G'],
      ['P', 'B', 'O', 'R'],
      ['P', 'B', 'O', 'Y'],
      ['P', 'B', 'R', 'G'],
      ['P', 'B', 'R', 'O'],
      ['P', 'B', 'R', 'Y'],
      ['P', 'B', 'Y', 'G'],
      ['P', 'B', 'Y', 'O'],
      ['P', 'B', 'Y', 'R'],
      ['P', 'G', 'B', 'O'],
      ['P', 'G', 'B', 'R'],
      ['P', 'G', 'B', 'Y'],
      ['P', 'G', 'O', 'B'],
      ['P', 'G', 'O', 'R'],
      ['P', 'G', 'O', 'Y'],
      ['P', 'G', 'R', 'B'],
      ['P', 'G', 'R', 'O'],
      ['P', 'G', 'R', 'Y'],
      ['P', 'G', 'Y', 'B'],
      ['P', 'G', 'Y', 'O'],
      ['P', 'G', 'Y', 'R'],
      ['P', 'O', 'B', 'G'],
      ['P', 'O', 'B', 'R'],
      ['P', 'O', 'B', 'Y'],
      ['P', 'O', 'G', 'B'],
      ['P', 'O', 'G', 'R'],
      ['P', 'O', 'G', 'Y'],
      ['P', 'O', 'R', 'B'],
      ['P', 'O', 'R', 'G'],
      ['P', 'O', 'R', 'Y'],
      ['P', 'O', 'Y', 'B'],
      ['P', 'O', 'Y', 'G'],
      ['P', 'O', 'Y', 'R'],
      ['P', 'R', 'B', 'G'],
      ['P', 'R', 'B', 'O'],
      ['P', 'R', 'B', 'Y'],
      ['P', 'R', 'G', 'B'],
      ['P', 'R', 'G', 'O'],
      ['P', 'R', 'G', 'Y'],
      ['P', 'R', 'O', 'B'],
      ['P', 'R', 'O', 'G'],
      ['P', 'R', 'O', 'Y'],
      ['P', 'R', 'Y', 'B'],
      ['P', 'R', 'Y', 'G'],
      ['P', 'R', 'Y', 'O'],
      ['P', 'Y', 'B', 'G'],
      ['P', 'Y', 'B', 'O'],
      ['P', 'Y', 'B', 'R'],
      ['P', 'Y', 'G', 'B'],
      ['P', 'Y', 'G', 'O'],
      ['P', 'Y', 'G', 'R'],
      ['P', 'Y', 'O', 'B'],
      ['P', 'Y', 'O', 'G'],
      ['P', 'Y', 'O', 'R'],
      ['P', 'Y', 'R', 'B'],
      ['P', 'Y', 'R', 'G'],
      ['P', 'Y', 'R', 'O']] : List Code),
    ∃ k : Nat, k ≤ 6 ∧ (loopRun (honest s) 7 none S0 []).1 = RunResult.solved s k :=
  List.forall_mem_cons.mpr ⟨⟨5, by decide, fst_of_eq rs210⟩,
  List.forall_mem_cons.mpr ⟨⟨5, by decide, fst_of_eq rs211⟩,
  List.forall_mem_cons.mpr ⟨⟨5, by decide, fst_of_eq rs212⟩,
  List.forall_mem_cons.mpr ⟨⟨4, by decide, fst_of_eq rs213⟩,
  List.forall_mem_cons.mpr ⟨⟨5, by decide, fst_of_eq rs214⟩,
  List.forall_mem_cons.mpr ⟨⟨4, by decide, fst_of_eq rs215⟩,
  List.forall_mem_cons.mpr ⟨⟨4, by decide, fst_of_eq rs216⟩,
  List.forall_mem_cons.mpr ⟨⟨4, by decide, fst_of_eq rs217⟩,
  List.forall_mem_cons.mpr ⟨⟨4, by decide, fst_of_eq rs218⟩,
  List.forall_mem_cons.mpr ⟨⟨5, by decide, fst_of_eq rs219⟩,
  tl22⟩⟩⟩⟩⟩⟩⟩⟩⟩⟩


lemma tl20 : ∀ s ∈ ([['R', 'G', 'Y', 'P'],
      ['R', 'G', 'P', 'B'],
      ['R', 'G', 'P', 'O'],
      ['R', 'G', 'P', 'Y'],
      ['R', 'O', 'B', 'G'],
      ['R', 'O', 'B', 'Y'],
      ['R', 'O', 'B', 'P'],
      ['R', 'O', 'G', 'B'],
      ['R', 'O', 'G', 'Y'],
      ['R', 'O', 'G', 'P'],
      ['R', 'O', 'Y', 'B'],
      ['R', 'O', 'Y', 'G'],
      ['R', 'O', 'Y', 'P'],
      ['R', 'O', 'P', 'B'],
      ['R', 'O', 'P', 'G'],
      ['R', 'O', 'P', 'Y'],
      ['R', 'Y', 'B', 'G'],
      ['R', 'Y', 'B', 'O'],
      ['R', 'Y', 'B', 'P'],
      ['R', 'Y', 'G', 'B'],
      ['R', 'Y', 'G', 'O'],
      ['R', 'Y', 'G', 'P'],
      ['R', 'Y', 'O', 'B'],
      ['R', 'Y', 'O', 'G'],
      ['R', 'Y', 'O', 'P'],
      ['R', 'Y', 'P', 'B'],
      ['R', 'Y', 'P', 'G'],
      ['R', 'Y', 'P', 'O'],
      ['R', 'P', 'B', 'G'],
      ['R', 'P', 'B', 'O'],
      ['R', 'P', 'B', 'Y'],
      ['R', 'P', 'G', 'B'],
      ['R', 'P', 'G', 'O'],
      ['R', 'P', 'G', 'Y'],
      ['R', 'P', 'O', 'B'],
      ['R', 'P', 'O', 'G'],
      ['R', 'P', 'O', 'Y'],
      ['R', 'P', 'Y', 'B'],
      ['R', 'P', 'Y', 'G'],
      ['R', 'P', 'Y', 'O'],
      ['Y', 'B', 'G', 'O'],
      ['Y', 'B', 'G', 'R'],
      ['Y', 'B', 'G', 'P'],
      ['Y', 'B', 'O', 'G'],
      ['Y', 'B', 'O', 'R'],
      ['Y', 'B', 'O', 'P'],
      ['Y', 'B', 'R', 'G'],
      ['Y', 'B', 'R', 'O'],
      ['Y', 'B', 'R', 'P'],
      ['Y', 'B', 'P', 'G'],
      ['Y', 'B', 'P', 'O'],
      ['Y', 'B', 'P', 'R'],
      ['Y', 'G', 'B', 'O'],
      ['Y', 'G', 'B', 'R'],
      ['Y', 'G', 'B', 'P'],
      ['Y', 'G', 'O', 'B'],
      ['Y', 'G', 'O', 'R'],
      ['Y', 'G', 'O', 'P'],
      ['Y', 'G', 'R', 'B'],
      ['Y', 'G', 'R', 'O'],
      ['Y', 'G', 'R', 'P'],
      ['Y', 'G', 'P', 'B'],
      ['Y', 'G', 'P', 'O'],
      ['Y', 'G', 'P', 'R'],
      ['Y', 'O', 'B', 'G'],
      ['Y', 'O', 'B', 'R'],
      ['Y', 'O', 'B', 'P'],
      ['Y', 'O', 'G', 'B'],
      ['Y', 'O', 'G', 'R'],
      ['Y', 'O', 'G', 'P'],
      ['Y', 'O', 'R', 'B'],
      ['Y', 'O', 'R', 'G'],
      ['Y', 'O', 'R', 'P'],
      ['Y', 'O', 'P', 'B'],
      ['Y', 'O', 'P', 'G'],
      ['Y', 'O', 'P', 'R'],
      ['Y', 'R', 'B', 'G'],
      ['Y', 'R', 'B', 'O'],
      ['Y', 'R', 'B', 'P'],
      ['Y', 'R', 'G', 'B'],
      ['Y', 'R', 'G', 'O'],
      ['Y', 'R', 'G', 'P'],
      ['Y', 'R', 'O', 'B'],
      ['Y', 'R', 'O', 'G'],
      ['Y', 'R', 'O', 'P'],
      ['Y', 'R', 'P', 'B'],
      ['Y', 'R', 'P', 'G'],
      ['Y', 'R', 'P', 'O'],
      ['Y', 'P', 'B', 'G'],
      ['Y', 'P', 'B', 'O'],
      ['Y', 'P', 'B', 'R'],
      ['Y', 'P', 'G', 'B'],
      ['Y', 'P', 'G', 'O'],
      ['Y', 'P', 'G', 'R'],
      ['Y', 'P', 'O', 'B'],
      ['Y', 'P', 'O', 'G'],
      ['Y', 'P', 'O', 'R'],
      ['Y', 'P', 'R', 'B'],
      ['Y', 'P', 'R', 'G'],
      ['Y', 'P', 'R', 'O'],
      ['P', 'B', 'G', 'O'],
      ['P', 'B', 'G', 'R'],
      ['P', 'B', 'G', 'Y'],
      ['P', 'B', 'O', 'G'],
      ['P', 'B', 'O', 'R'],
      ['P', 'B', 'O', 'Y'],
      ['P', 'B', 'R', 'G'],
      ['P', 'B', 'R', 'O'],
      ['P', 'B', 'R', 'Y'],
      ['P', 'B', 'Y', 'G'],
      ['P', 'B', 'Y', 'O'],
      ['P', 'B', 'Y', 'R'],
      ['P', 'G', 'B', 'O'],
      ['P', 'G', 'B', 'R'],
      ['P', 'G', 'B', 'Y'],
      ['P', 'G', 'O', 'B'],
      ['P', 'G', 'O', 'R'],
      ['P', 'G', 'O', 'Y'],
      ['P', 'G', 'R', 'B'],
      ['P', 'G', 'R', 'O'],
      ['P', 'G', 'R', 'Y'],
      ['P', 'G', 'Y', 'B'],
      ['P', 'G', 'Y', 'O'],
      ['P', 'G', 'Y', 'R'],
      ['P', 'O', 'B', 'G'],
      ['P', 'O', 'B', 'R'],
      ['P', 'O', 'B', 'Y'],
      ['P', 'O', 'G', 'B'],
      ['P', 'O', 'G', 'R'],
      ['P', 'O', 'G', 'Y'],
      ['P', 'O', 'R', 'B'],
      ['P', 'O', 'R', 'G'],
      ['P', 'O', 'R', 'Y'],
      ['P', 'O', 'Y', 'B'],
      ['P', 'O', 'Y', 'G'],
      ['P', 'O', 'Y', 'R'],
      ['P', 'R', 'B', 'G'],
      ['P', 'R', 'B', 'O'],
      ['P', 'R', 'B', 'Y'],
      ['P', 'R', 'G', 'B'],
      ['P', 'R', 'G', 'O'],
      ['P', 'R', 'G', 'Y'],
      ['P', 'R', 'O', 'B'],
      ['P', 'R', 'O', 'G'],
      ['P', 'R', 'O', 'Y'],
      ['P', 'R', 'Y', 'B'],
      ['P', 'R', 'Y', 'G'],
      ['P', 'R', 'Y', 'O'],
      ['P', 'Y', 'B', 'G'],
      ['P', 'Y', 'B', 'O'],
      ['P', 'Y', 'B', 'R'],
      ['P', 'Y', 'G', 'B'],
      ['P', 'Y', 'G', 'O'],
      ['P', 'Y', 'G', 'R'],
      ['P', 'Y', 'O', 'B'],
      ['P', 'Y', 'O', 'G'],
      ['P', 'Y', 'O', 'R'],
      ['P', 'Y', 'R', 'B'],
      ['P', 'Y', 'R', 'G'],
      ['P', 'Y', 'R', 'O']] : List Code),
    ∃ k : Nat, k ≤ 6 ∧ (loopRun (honest s) 7 none S0 []).1 = RunResult.solved s k :=
  List.forall_mem_cons.mpr ⟨⟨3, by decide, fst_of_eq rs200⟩,
  List.forall_mem_cons.mpr ⟨⟨5, by decide, fst_of_eq rs201⟩,
  List.forall_mem_cons.mpr ⟨⟨5, by decide, fst_of_eq rs202⟩,
  List.forall_mem_cons.mpr ⟨⟨4, by decide, fst_of_eq rs203⟩,
  List.forall_mem_cons.mpr ⟨⟨5, by decide, fst_of_eq rs204⟩,
  List.forall_mem_cons.mpr ⟨⟨5, by decide, fst_of_eq rs205⟩,
  List.forall_mem_cons.mpr ⟨⟨3, by decide, fst_of_eq rs206⟩,
  List.forall_mem_cons.mpr ⟨⟨4, by decide, fst_of_eq rs207⟩,
  List.forall_mem_cons.mpr ⟨⟨4, by decide, fst_of_eq rs208⟩,
  List.forall_mem_cons.mpr ⟨⟨5, by decide, fst_of_eq rs209⟩,
  tl21⟩⟩⟩⟩⟩⟩⟩⟩⟩⟩


lemma tl19 : ∀ s ∈ ([['R', 'B', 'P', 'O'],
      ['R', 'B', 'P', 'Y'],
      ['R', 'G', 'B', 'O'],
      ['R', 'G', 'B', 'Y'],
      ['R', 'G', 'B', 'P'],
      ['R', 'G', 'O', 'B'],
      ['R', 'G', 'O', 'Y'],
      ['R', 'G', 'O', 'P'],
      ['R', 'G', 'Y', 'B'],
      ['R', 'G', 'Y', 'O'],
      ['R', 'G', 'Y', 'P'],
      ['R', 'G', 'P', 'B'],
      ['R', 'G', 'P', 'O'],
      ['R', 'G', 'P', 'Y'],
      ['R', 'O', 'B', 'G'],
      ['R', 'O', 'B', 'Y'],
      ['R', 'O', 'B', 'P'],
      ['R', 'O', 'G', 'B'],
      ['R', 'O', 'G', 'Y'],
      ['R', 'O', 'G', 'P'],
      ['R', 'O', 'Y', 'B'],
      ['R', 'O', 'Y', 'G'],
      ['R', 'O', 'Y', 'P'],
      ['R', 'O', 'P', 'B'],
      ['R', 'O', 'P', 'G'],
      ['R', 'O', 'P', 'Y'],
      ['R', 'Y', 'B', 'G'],
      ['R', 'Y', 'B', 'O'],
      ['R', 'Y', 'B', 'P'],
      ['R', 'Y', 'G', 'B'],
      ['R', 'Y', 'G', 'O'],
      ['R', 'Y', 'G', 'P'],
      ['R', 'Y', 'O', 'B'],
      ['R', 'Y', 'O', 'G'],
      ['R', 'Y', 'O', 'P'],
      ['R', 'Y', 'P', 'B'],
      ['R', 'Y', 'P', 'G'],
      ['R', 'Y', 'P', 'O'],
      ['R', 'P', 'B', 'G'],
      ['R', 'P', 'B', 'O'],
      ['R', 'P', 'B', 'Y'],
      ['R', 'P', 'G', 'B'],
      ['R', 'P', 'G', 'O'],
      ['R', 'P', 'G', 'Y'],
      ['R', 'P', 'O', 'B'],
      ['R', 'P', 'O', 'G'],
      ['R', 'P', 'O', 'Y'],
      ['R', 'P', 'Y', 'B'],
      ['R', 'P', 'Y', 'G'],
      ['R', 'P', 'Y', 'O'],
      ['Y', 'B', 'G', 'O'],
      ['Y', 'B', 'G', 'R'],
      ['Y', 'B', 'G', 'P'],
      ['Y', 'B', 'O', 'G'],
      ['Y', 'B', 'O', 'R'],
      ['Y', 'B', 'O', 'P'],
      ['Y', 'B', 'R', 'G'],
      ['Y', 'B', 'R', 'O'],
      ['Y', 'B', 'R', 'P'],
      ['Y', 'B', 'P', 'G'],
      ['Y', 'B', 'P', 'O'],
      ['Y', 'B', 'P', 'R'],
      ['Y', 'G', 'B', 'O'],
      ['Y', 'G', 'B', 'R'],
      ['Y', 'G', 'B', 'P'],
      ['Y', 'G', 'O', 'B'],
      ['Y', 'G', 'O', 'R'],
      ['Y', 'G', 'O', 'P'],
      ['Y', 'G', 'R', 'B'],
      ['Y', 'G', 'R', 'O'],
      ['Y', 'G', 'R', 'P'],
      ['Y', 'G', 'P', 'B'],
      ['Y', 'G', 'P', 'O'],
      ['Y', 'G', 'P', 'R'],
      ['Y', 'O', 'B', 'G'],
      ['Y', 'O', 'B', 'R'],
      ['Y', 'O', 'B', 'P'],
      ['Y', 'O', 'G', 'B'],
      ['Y', 'O', 'G', 'R'],
      ['Y', 'O', 'G', 'P'],
      ['Y', 'O', 'R', 'B'],
      ['Y', 'O', 'R', 'G'],
      ['Y', 'O', 'R', 'P'],
      ['Y', 'O', 'P', 'B'],
      ['Y', 'O', 'P', 'G'],
      ['Y', 'O', 'P', 'R'],
      ['Y', 'R', 'B', 'G'],
      ['Y', 'R', 'B', 'O'],
      ['Y', 'R', 'B', 'P'],
      ['Y', 'R', 'G', 'B'],
      ['Y', 'R', 'G', 'O'],
      ['Y', 'R', 'G', 'P'],
      ['Y', 'R', 'O', 'B'],
      ['Y', 'R', 'O', 'G'],
      ['Y', 'R', 'O', 'P'],
      ['Y', 'R', 'P', 'B'],
      ['Y', 'R', 'P', 'G'],
      ['Y', 'R', 'P', 'O'],
      ['Y', 'P', 'B', 'G'],
      ['Y', 'P', 'B', 'O'],
      ['Y', 'P', 'B', 'R'],
      ['Y', 'P', 'G', 'B'],
      ['Y', 'P', 'G', 'O'],
      ['Y', 'P', 'G', 'R'],
      ['Y', 'P', 'O', 'B'],
      ['Y', 'P', 'O', 'G'],
      ['Y', 'P', 'O', 'R'],
      ['Y', 'P', 'R', 'B'],
      ['Y', 'P', 'R', 'G'],
      ['Y', 'P', 'R', 'O'],
      ['P', 'B', 'G', 'O'],
      ['P', 'B', 'G', 'R'],
      ['P', 'B', 'G', 'Y'],
      ['P', 'B', 'O', 'G'],
      ['P', 'B', 'O', 'R'],
      ['P', 'B', 'O', 'Y'],
      ['P', 'B', 'R', 'G'],
      ['P', 'B', 'R', 'O'],
      ['P', 'B', 'R', 'Y'],
      ['P', 'B', 'Y', 'G'],
      ['P', 'B', 'Y', 'O'],
      ['P', 'B', 'Y', 'R'],
      ['P', 'G', 'B', 'O'],
      ['P', 'G', 'B', 'R'],
      ['P', 'G', 'B', 'Y'],
      ['P', 'G', 'O', 'B'],
      ['P', 'G', 'O', 'R'],
      ['P', 'G', 'O', 'Y'],
      ['P', 'G', 'R', 'B'],
      ['P', 'G', 'R', 'O'],
      ['P', 'G', 'R', 'Y'],
      ['P', 'G', 'Y', 'B'],
      ['P', 'G', 'Y', 'O'],
      ['P', 'G', 'Y', 'R'],
      ['P', 'O', 'B', 'G'],
      ['P', 'O', 'B', 'R'],
      ['P', 'O', 'B', 'Y'],
      ['P', 'O', 'G', 'B'],
      ['P', 'O', 'G', 'R'],
      ['P', 'O', 'G', 'Y'],
      ['P', 'O', 'R', 'B'],
      ['P', 'O', 'R', 'G'],
      ['P', 'O', 'R', 'Y'],
      ['P', 'O', 'Y', 'B'],
      ['P', 'O', 'Y', 'G'],
      ['P', 'O', 'Y', 'R'],
      ['P', 'R', 'B', 'G'],
      ['P', 'R', 'B', 'O'],
      ['P', 'R', 'B', 'Y'],
      ['P', 'R', 'G', 'B'],
      ['P', 'R', 'G', 'O'],
      ['P', 'R', 'G', 'Y'],
      ['P', 'R', 'O', 'B'],
      ['P', 'R', 'O', 'G'],
      ['P', 'R', 'O', 'Y'],
      ['P', 'R', 'Y', 'B'],
      ['P', 'R', 'Y', 'G'],
      ['P', 'R', 'Y', 'O'],
      ['P', 'Y', 'B', 'G'],
      ['P', 'Y', 'B', 'O'],
      ['P', 'Y', 'B', 'R'],
      ['P', 'Y', 'G', 'B'],
      ['P', 'Y', 'G', 'O'],
      ['P', 'Y', 'G', 'R'],
      ['P', 'Y', 'O', 'B'],
      ['P', 'Y', 'O', 'G'],
      ['P', 'Y', 'O', 'R'],
      ['P', 'Y', 'R', 'B'],
      ['P', 'Y', 'R', 'G'],
      ['P', 'Y', 'R', 'O']] : List Code),
    ∃ k : Nat, k ≤ 6 ∧ (loopRun (honest s) 7 none S0 []).1 = RunResult.solved s k :=
  List.forall_mem_cons.mpr ⟨⟨5, by decide, fst_of_eq rs190⟩,
  List.forall_mem_cons.mpr ⟨⟨3, by decide, fst_of_eq rs191⟩,
  List.forall_mem_cons.mpr ⟨⟨5, by decide, fst_of_eq rs192⟩,
  List.forall_mem_cons.mpr ⟨⟨5, by decide, fst_of_eq rs193⟩,
  List.forall_mem_cons.mpr ⟨⟨4, by decide, fst_of_eq rs194⟩,
  List.forall_mem_cons.mpr ⟨⟨4, by decide, fst_of_eq rs195⟩,
  List.forall_mem_cons.mpr ⟨⟨4, by decide, fst_of_eq rs196⟩,
  List.forall_mem_cons.mpr ⟨⟨4, by decide, fst_of_eq rs197⟩,
  List.forall_mem_cons.mpr ⟨⟨4, by decide, fst_of_eq rs198⟩,
  List.forall_mem_cons.mpr ⟨⟨4, by decide, fst_of_eq rs199⟩,
  tl20⟩⟩⟩⟩⟩⟩⟩⟩⟩⟩


lemma tl18 : ∀ s ∈ ([['R', 'B', 'G', 'O'],
      ['R', 'B', 'G', 'Y'],
      ['R', 'B', 'G', 'P'],
      ['R', 'B', 'O', 'G'],
      ['R', 'B', 'O', 'Y'],
      ['R', 'B', 'O', 'P'],
      ['R', 'B', 'Y', 'G'],
      ['R', 'B', 'Y', 'O'],
      ['R', 'B', 'Y', 'P'],
      ['R', 'B', 'P', 'G'],
      ['R', 'B', 'P', 'O'],
      ['R', 'B', 'P', 'Y'],
      ['R', 'G', 'B', 'O'],
      ['R', 'G', 'B', 'Y'],
      ['R', 'G', 'B', 'P'],
      ['R', 'G', 'O', 'B'],
      ['R', 'G', 'O', 'Y'],
      ['R', 'G', 'O', 'P'],
      ['R', 'G', 'Y', 'B'],
      ['R', 'G', 'Y', 'O'],
      ['R', 'G', 'Y', 'P'],
      ['R', 'G', 'P', 'B'],
      ['R', 'G', 'P', 'O'],
      ['R', 'G', 'P', 'Y'],
      ['R', 'O', 'B', 'G'],
      ['R', 'O', 'B', 'Y'],
      ['R', 'O', 'B', 'P'],
      ['R', 'O', 'G', 'B'],
      ['R', 'O', 'G', 'Y'],
      ['R', 'O', 'G', 'P'],
      ['R', 'O', 'Y', 'B'],
      ['R', 'O', 'Y', 'G'],
      ['R', 'O', 'Y', 'P'],
      ['R', 'O', 'P', 'B'],
      ['R', 'O', 'P', 'G'],
      ['R', 'O', 'P', 'Y'],
      ['R', 'Y', 'B', 'G'],
      ['R', 'Y', 'B', 'O'],
      ['R', 'Y', 'B', 'P'],
      ['R', 'Y', 'G', 'B'],
      ['R', 'Y', 'G', 'O'],
      ['R', 'Y', 'G', 'P'],
      ['R', 'Y', 'O', 'B'],
      ['R', 'Y', 'O', 'G'],
      ['R', 'Y', 'O', 'P'],
      ['R', 'Y', 'P', 'B'],
      ['R', 'Y', 'P', 'G'],
      ['R', 'Y', 'P', 'O'],
      ['R', 'P', 'B', 'G'],
      ['R', 'P', 'B', 'O'],
      ['R', 'P', 'B', 'Y'],
      ['R', 'P', 'G', 'B'],
      ['R', 'P', 'G', 'O'],
      ['R', 'P', 'G', 'Y'],
      ['R', 'P', 'O', 'B'],
      ['R', 'P', 'O', 'G'],
      ['R', 'P', 'O', 'Y'],
      ['R', 'P', 'Y', 'B'],
      ['R', 'P', 'Y', 'G'],
      ['R', 'P', 'Y', 'O'],
      ['Y', 'B', 'G', 'O'],
      ['Y', 'B', 'G', 'R'],
      ['Y', 'B', 'G', 'P'],
      ['Y', 'B', 'O', 'G'],
      ['Y', 'B', 'O', 'R'],
      ['Y', 'B', 'O', 'P'],
      ['Y', 'B', 'R', 'G'],
      ['Y', 'B', 'R', 'O'],
      ['Y', 'B', 'R', 'P'],
      ['Y', 'B', 'P', 'G'],
      ['Y', 'B', 'P', 'O'],
      ['Y', 'B', 'P', 'R'],
      ['Y', 'G', 'B', 'O'],
      ['Y', 'G', 'B', 'R'],
      ['Y', 'G', 'B', 'P'],
      ['Y', 'G', 'O', 'B'],
      ['Y', 'G', 'O', 'R'],
      ['Y', 'G', 'O', 'P'],
      ['Y', 'G', 'R', 'B'],
      ['Y', 'G', 'R', 'O'],
      ['Y', 'G', 'R', 'P'],
      ['Y', 'G', 'P', 'B'],
      ['Y', 'G', 'P', 'O'],
      ['Y', 'G', 'P', 'R'],
      ['Y', 'O', 'B', 'G'],
      ['Y', 'O', 'B', 'R'],
      ['Y', 'O', 'B', 'P'],
      ['Y', 'O', 'G', 'B'],
      ['Y', 'O', 'G', 'R'],
      ['Y', 'O', 'G', 'P'],
      ['Y', 'O', 'R', 'B'],
      ['Y', 'O', 'R', 'G'],
      ['Y', 'O', 'R', 'P'],
      ['Y', 'O', 'P', 'B'],
      ['Y', 'O', 'P', 'G'],
      ['Y', 'O', 'P', 'R'],
      ['Y', 'R', 'B', 'G'],
      ['Y', 'R', 'B', 'O'],
      ['Y', 'R', 'B', 'P'],
      ['Y', 'R', 'G', 'B'],
      ['Y', 'R', 'G', 'O'],
      ['Y', 'R', 'G', 'P'],
      ['Y', 'R', 'O', 'B'],
      ['Y', 'R', 'O', 'G'],
      ['Y', 'R', 'O', 'P'],
      ['Y', 'R', 'P', 'B'],
      ['Y', 'R', 'P', 'G'],
      ['Y', 'R', 'P', 'O'],
      ['Y', 'P', 'B', 'G'],
      ['Y', 'P', 'B', 'O'],
      ['Y', 'P', 'B', 'R'],
      ['Y', 'P', 'G', 'B'],
      ['Y', 'P', 'G', 'O'],
      ['Y', 'P', 'G', 'R'],
      ['Y', 'P', 'O', 'B'],
      ['Y', 'P', 'O', 'G'],
      ['Y', 'P', 'O', 'R'],
      ['Y', 'P', 'R', 'B'],
      ['Y', 'P', 'R', 'G'],
      ['Y', 'P', 'R', 'O'],
      ['P', 'B', 'G', 'O'],
      ['P', 'B', 'G', 'R'],
      ['P', 'B', 'G', 'Y'],
      ['P', 'B', 'O', 'G'],
      ['P', 'B', 'O', 'R'],
      ['P', 'B', 'O', 'Y'],
      ['P', 'B', 'R', 'G'],
      ['P', 'B', 'R', 'O'],
      ['P', 'B', 'R', 'Y'],
      ['P', 'B', 'Y', 'G'],
      ['P', 'B', 'Y', 'O'],
      ['P', 'B', 'Y', 'R'],
      ['P', 'G', 'B', 'O'],
      ['P', 'G', 'B', 'R'],
      ['P', 'G', 'B', 'Y'],
      ['P', 'G', 'O', 'B'],
      ['P', 'G', 'O', 'R'],
      ['P', 'G', 'O', 'Y'],
      ['P', 'G', 'R', 'B'],
      ['P', 'G', 'R', 'O'],
      ['P', 'G', 'R', 'Y'],
      ['P', 'G', 'Y', 'B'],
      ['P', 'G', 'Y', 'O'],
      ['P', 'G', 'Y', 'R'],
      ['P', 'O', 'B', 'G'],
      ['P', 'O', 'B', 'R'],
      ['P', 'O', 'B', 'Y'],
      ['P', 'O', 'G', 'B'],
      ['P', 'O', 'G', 'R'],
      ['P', 'O', 'G', 'Y'],
      ['P', 'O', 'R', 'B'],
      ['P', 'O', 'R', 'G'],
      ['P', 'O', 'R', 'Y'],
      ['P', 'O', 'Y', 'B'],
      ['P', 'O', 'Y', 'G'],
      ['P', 'O', 'Y', 'R'],
      ['P', 'R', 'B', 'G'],
      ['P', 'R', 'B', 'O'],
      ['P', 'R', 'B', 'Y'],
      ['P', 'R', 'G', 'B'],
      ['P', 'R', 'G', 'O'],
      ['P', 'R', 'G', 'Y'],
      ['P', 'R', 'O', 'B'],
      ['P', 'R', 'O', 'G'],
      ['P', 'R', 'O', 'Y'],
      ['P', 'R', 'Y', 'B'],
      ['P', 'R', 'Y', 'G'],
      ['P', 'R', 'Y', 'O'],
      ['P', 'Y', 'B', 'G'],
      ['P', 'Y', 'B', 'O'],
      ['P', 'Y', 'B', 'R'],
      ['P', 'Y', 'G', 'B'],
      ['P', 'Y', 'G', 'O'],
      ['P', 'Y', 'G', 'R'],
      ['P', 'Y', 'O', 'B'],
      ['P', 'Y', 'O', 'G'],
      ['P', 'Y', 'O', 'R'],
      ['P', 'Y', 'R', 'B'],
      ['P', 'Y', 'R', 'G'],
      ['P', 'Y', 'R', 'O']] : List Code),
    ∃ k : Nat, k ≤ 6 ∧ (loopRun (honest s) 7 none S0 []).1 = RunResult.solved s k :=
  List.forall_mem_cons.mpr ⟨⟨4, by decide, fst_of_eq rs180⟩,
  List.forall_mem_cons.mpr ⟨⟨4, by decide, fst_of_eq rs181⟩,
  List.forall_mem_cons.mpr ⟨⟨4, by decide, fst_of_eq rs182⟩,
  List.forall_mem_cons.mpr ⟨⟨6, by decide, fst_of_eq rs183⟩,
  List.forall_mem_cons.mpr ⟨⟨4, by decide, fst_of_eq rs184⟩,
  List.forall_mem_cons.mpr ⟨⟨4, by decide, fst_of_eq rs185⟩,
  List.forall_mem_cons.mpr ⟨⟨4, by decide, fst_of_eq rs186⟩,
  List.forall_mem_cons.mpr ⟨⟨5, by decide, fst_of_eq rs187⟩,
  List.forall_mem_cons.mpr ⟨⟨5, by decide, fst_of_eq rs188⟩,
  List.forall_mem_cons.mpr ⟨⟨4, by decide, fst_of_eq rs189⟩,
  tl19⟩⟩⟩⟩⟩⟩⟩⟩⟩⟩


lemma tl17 : ∀ s ∈ ([['O', 'P', 'B', 'Y'],
      ['O', 'P', 'G', 'B'],
      ['O', 'P', 'G', 'R'],
      ['O', 'P', 'G', 'Y'],
      ['O', 'P', 'R', 'B'],
      ['O', 'P', 'R', 'G'],
      ['O', 'P', 'R', 'Y'],
      ['O', 'P', 'Y', 'B'],
      ['O', 'P', 'Y', 'G'],
      ['O', 'P', 'Y', 'R'],
      ['R', 'B', 'G', 'O'],
      ['R', 'B', 'G', 'Y'],
      ['R', 'B', 'G', 'P'],
      ['R', 'B', 'O', 'G'],
      ['R', 'B', 'O', 'Y'],
      ['R', 'B', 'O', 'P'],
      ['R', 'B', 'Y', 'G'],
      ['R', 'B', 'Y', 'O'],
      ['R', 'B', 'Y', 'P'],
      ['R', 'B', 'P', 'G'],
      ['R', 'B', 'P', 'O'],
      ['R', 'B', 'P', 'Y'],
      ['R', 'G', 'B', 'O'],
      ['R', 'G', 'B', 'Y'],
      ['R', 'G', 'B', 'P'],
      ['R', 'G', 'O', 'B'],
      ['R', 'G', 'O', 'Y'],
      ['R', 'G', 'O', 'P'],
      ['R', 'G', 'Y', 'B'],
      ['R', 'G', 'Y', 'O'],
      ['R', 'G', 'Y', 'P'],
      ['R', 'G', 'P', 'B'],
      ['R', 'G', 'P', 'O'],
      ['R', 'G', 'P', 'Y'],
      ['R', 'O', 'B', 'G'],
      ['R', 'O', 'B', 'Y'],
      ['R', 'O', 'B', 'P'],
      ['R', 'O', 'G', 'B'],
      ['R', 'O', 'G', 'Y'],
      ['R', 'O', 'G', 'P'],
      ['R', 'O', 'Y', 'B'],
      ['R', 'O', 'Y', 'G'],
      ['R', 'O', 'Y', 'P'],
      ['R', 'O', 'P', 'B'],
      ['R', 'O', 'P', 'G'],
      ['R', 'O', 'P', 'Y'],
      ['R', 'Y', 'B', 'G'],
      ['R', 'Y', 'B', 'O'],
      ['R', 'Y', 'B', 'P'],
      ['R', 'Y', 'G', 'B'],
      ['R', 'Y', 'G', 'O'],
      ['R', 'Y', 'G', 'P'],
      ['R', 'Y', 'O', 'B'],
      ['R', 'Y', 'O', 'G'],
      ['R', 'Y', 'O', 'P'],
      ['R', 'Y', 'P', 'B'],
      ['R', 'Y', 'P', 'G'],
      ['R', 'Y', 'P', 'O'],
      ['R', 'P', 'B', 'G'],
      ['R', 'P', 'B', 'O'],
      ['R', 'P', 'B', 'Y'],
      ['R', 'P', 'G', 'B'],
      ['R', 'P', 'G', 'O'],
      ['R', 'P', 'G', 'Y'],
      ['R', 'P', 'O', 'B'],
      ['R', 'P', 'O', 'G'],
      ['R', 'P', 'O', 'Y'],
      ['R', 'P', 'Y', 'B'],
      ['R', 'P', 'Y', 'G'],
      ['R', 'P', 'Y', 'O'],
      ['Y', 'B', 'G', 'O'],
      ['Y', 'B', 'G', 'R'],
      ['Y', 'B', 'G', 'P'],
      ['Y', 'B', 'O', 'G'],
      ['Y', 'B', 'O', 'R'],
      ['Y', 'B', 'O', 'P'],
      ['Y', 'B', 'R', 'G'],
      ['Y', 'B', 'R', 'O'],
      ['Y', 'B', 'R', 'P'],
      ['Y', 'B', 'P', 'G'],
      ['Y', 'B', 'P', 'O'],
      ['Y', 'B', 'P', 'R'],
      ['Y', 'G', 'B', 'O'],
      ['Y', 'G', 'B', 'R'],
      ['Y', 'G', 'B', 'P'],
      ['Y', 'G', 'O', 'B'],
      ['Y', 'G', 'O', 'R'],
      ['Y', 'G', 'O', 'P'],
      ['Y', 'G', 'R', 'B'],
      ['Y', 'G', 'R', 'O'],
      ['Y', 'G', 'R', 'P'],
      ['Y', 'G', 'P', 'B'],
      ['Y', 'G', 'P', 'O'],
      ['Y', 'G', 'P', 'R'],
      ['Y', 'O', 'B', 'G'],
      ['Y', 'O', 'B', 'R'],
      ['Y', 'O', 'B', 'P'],
      ['Y', 'O', 'G', 'B'],
      ['Y', 'O', 'G', 'R'],
      ['Y', 'O', 'G', 'P'],
      ['Y', 'O', 'R', 'B'],
      ['Y', 'O', 'R', 'G'],
      ['Y', 'O', 'R', 'P'],
      ['Y', 'O', 'P', 'B'],
      ['Y', 'O', 'P', 'G'],
      ['Y', 'O', 'P', 'R'],
      ['Y', 'R', 'B', 'G'],
      ['Y', 'R', 'B', 'O'],
      ['Y', 'R', 'B', 'P'],
      ['Y', 'R', 'G', 'B'],
      ['Y', 'R', 'G', 'O'],
      ['Y', 'R', 'G', 'P'],
      ['Y', 'R', 'O', 'B'],
      ['Y', 'R', 'O', 'G'],
      ['Y', 'R', 'O', 'P'],
      ['Y', 'R', 'P', 'B'],
      ['Y', 'R', 'P', 'G'],
      ['Y', 'R', 'P', 'O'],
      ['Y', 'P', 'B', 'G'],
      ['Y', 'P', 'B', 'O'],
      ['Y', 'P', 'B', 'R'],
      ['Y', 'P', 'G', 'B'],
      ['Y', 'P', 'G', 'O'],
      ['Y', 'P', 'G', 'R'],
      ['Y', 'P', 'O', 'B'],
      ['Y', 'P', 'O', 'G'],
      ['Y', 'P', 'O', 'R'],
      ['Y', 'P', 'R', 'B'],
      ['Y', 'P', 'R', 'G'],
      ['Y', 'P', 'R', 'O'],
      ['P', 'B', 'G', 'O'],
      ['P', 'B', 'G', 'R'],
      ['P', 'B', 'G', 'Y'],
      ['P', 'B', 'O', 'G'],
      ['P', 'B', 'O', 'R'],
      ['P', 'B', 'O', 'Y'],
      ['P', 'B', 'R', 'G'],
      ['P', 'B', 'R', 'O'],
      ['P', 'B', 'R', 'Y'],
      ['P', 'B', 'Y', 'G'],
      ['P', 'B', 'Y', 'O'],
      ['P', 'B', 'Y', 'R'],
      ['P', 'G', 'B', 'O'],
      ['P', 'G', 'B', 'R'],
      ['P', 'G', 'B', 'Y'],
      ['P', 'G', 'O', 'B'],
      ['P', 'G', 'O', 'R'],
      ['P', 'G', 'O', 'Y'],
      ['P', 'G', 'R', 'B'],
      ['P', 'G', 'R', 'O'],
      ['P', 'G', 'R', 'Y'],
      ['P', 'G', 'Y', 'B'],
      ['P', 'G', 'Y', 'O'],
      ['P', 'G', 'Y', 'R'],
      ['P', 'O', 'B', 'G'],
      ['P', 'O', 'B', 'R'],
      ['P', 'O', 'B', 'Y'],
      ['P', 'O', 'G', 'B'],
      ['P', 'O', 'G', 'R'],
      ['P', 'O', 'G', 'Y'],
      ['P', 'O', 'R', 'B'],
      ['P', 'O', 'R', 'G'],
      ['P', 'O', 'R', 'Y'],
      ['P', 'O', 'Y', 'B'],
      ['P', 'O', 'Y', 'G'],
      ['P', 'O', 'Y', 'R'],
      ['P', 'R', 'B', 'G'],
      ['P', 'R', 'B', 'O'],
      ['P', 'R', 'B', 'Y'],
      ['P', 'R', 'G', 'B'],
      ['P', 'R', 'G', 'O'],
      ['P', 'R', 'G', 'Y'],
      ['P', 'R', 'O', 'B'],
      ['P', 'R', 'O', 'G'],
      ['P', 'R', 'O', 'Y'],
      ['P', 'R', 'Y', 'B'],
      ['P', 'R', 'Y', 'G'],
      ['P', 'R', 'Y', 'O'],
      ['P', 'Y', 'B', 'G'],
      ['P', 'Y', 'B', 'O'],
      ['P', 'Y', 'B', 'R'],
      ['P', 'Y', 'G', 'B'],
      ['P', 'Y', 'G', 'O'],
      ['P', 'Y', 'G', 'R'],
      ['P', 'Y', 'O', 'B'],
      ['P', 'Y', 'O', 'G'],
      ['P', 'Y', 'O', 'R'],
      ['P', 'Y', 'R', 'B'],
      ['P', 'Y', 'R', 'G'],
      ['P', 'Y', 'R', 'O']] : List Code),
    ∃ k : Nat, k ≤ 6 ∧ (loopRun (honest s) 7 none S0 []).1 = RunResult.solved s k :=
  List.forall_mem_cons.mpr ⟨⟨4, by decide, fst_of_eq rs170⟩,
  List.forall_mem_cons.mpr ⟨⟨4, by decide, fst_of_eq rs171⟩,
  List.forall_mem_cons.mpr ⟨⟨5, by decide, fst_of_eq rs172⟩,
  List.forall_mem_cons.mpr ⟨⟨4, by decide, fst_of_eq rs173⟩,
  List.forall_mem_cons.mpr ⟨⟨4, by decide, fst_of_eq rs174⟩,
  List.forall_mem_cons.mpr ⟨⟨4, by decide, fst_of_eq rs175⟩,
  List.forall_mem_cons.mpr ⟨⟨4, by decide, fst_of_eq rs176⟩,
  List.forall_mem_cons.mpr ⟨⟨4, by decide, fst_of_eq rs177⟩,
  List.forall_mem_cons.mpr ⟨⟨4, by decide, fst_of_eq rs178⟩,
  List.forall_mem_cons.mpr ⟨⟨4, by decide, fst_of_eq rs179⟩,
  tl18⟩⟩⟩⟩⟩⟩⟩⟩⟩⟩


lemma tl16 : ∀ s ∈ ([['O', 'Y', 'G', 'R'],
      ['O', 'Y', 'G', 'P'],
      ['O', 'Y', 'R', 'B'],
      ['O', 'Y', 'R', 'G'],
      ['O', 'Y', 'R', 'P'],
      ['O', 'Y', 'P', 'B'],
      ['O', 'Y', 'P', 'G'],
      ['O', 'Y', 'P', 'R'],
      ['O', 'P', 'B', 'G'],
      ['O', 'P', 'B', 'R'],
      ['O', 'P', 'B', 'Y'],
      ['O', 'P', 'G', 'B'],
      ['O', 'P', 'G', 'R'],
      ['O', 'P', 'G', 'Y'],
      ['O', 'P', 'R', 'B'],
      ['O', 'P', 'R', 'G'],
      ['O', 'P', 'R', 'Y'],
      ['O', 'P', 'Y', 'B'],
      ['O', 'P', 'Y', 'G'],
      ['O', 'P', 'Y', 'R'],
      ['R', 'B', 'G', 'O'],
      ['R', 'B', 'G', 'Y'],
      ['R', 'B', 'G', 'P'],
      ['R', 'B', 'O', 'G'],
      ['R', 'B', 'O', 'Y'],
      ['R', 'B', 'O', 'P'],
      ['R', 'B', 'Y', 'G'],
      ['R', 'B', 'Y', 'O'],
      ['R', 'B', 'Y', 'P'],
      ['R', 'B', 'P', 'G'],
      ['R', 'B', 'P', 'O'],
      ['R', 'B', 'P', 'Y'],
      ['R', 'G', 'B', 'O'],
      ['R', 'G', 'B', 'Y'],
      ['R', 'G', 'B', 'P'],
      ['R', 'G', 'O', 'B'],
      ['R', 'G', 'O', 'Y'],
      ['R', 'G', 'O', 'P'],
      ['R', 'G', 'Y', 'B'],
      ['R', 'G', 'Y', 'O'],
      ['R', 'G', 'Y', 'P'],
      ['R', 'G', 'P', 'B'],
      ['R', 'G', 'P', 'O'],
      ['R', 'G', 'P', 'Y'],
      ['R', 'O', 'B', 'G'],
      ['R', 'O', 'B', 'Y'],
      ['R', 'O', 'B', 'P'],
      ['R', 'O', 'G', 'B'],
      ['R', 'O', 'G', 'Y'],
      ['R', 'O', 'G', 'P'],
      ['R', 'O', 'Y', 'B'],
      ['R', 'O', 'Y', 'G'],
      ['R', 'O', 'Y', 'P'],
      ['R', 'O', 'P', 'B'],
      ['R', 'O', 'P', 'G'],
      ['R', 'O', 'P', 'Y'],
      ['R', 'Y', 'B', 'G'],
      ['R', 'Y', 'B', 'O'],
      ['R', 'Y', 'B', 'P'],
      ['R', 'Y', 'G', 'B'],
      ['R', 'Y', 'G', 'O'],
      ['R', 'Y', 'G', 'P'],
      ['R', 'Y', 'O', 'B'],
      ['R', 'Y', 'O', 'G'],
      ['R', 'Y', 'O', 'P'],
      ['R', 'Y', 'P', 'B'],
      ['R', 'Y', 'P', 'G'],
      ['R', 'Y', 'P', 'O'],
      ['R', 'P', 'B', 'G'],
      ['R', 'P', 'B', 'O'],
      ['R', 'P', 'B', 'Y'],
      ['R', 'P', 'G', 'B'],
      ['R', 'P', 'G', 'O'],
      ['R', 'P', 'G', 'Y'],
      ['R', 'P', 'O', 'B'],
      ['R', 'P', 'O', 'G'],
      ['R', 'P', 'O', 'Y'],
      ['R', 'P', 'Y', 'B'],
      ['R', 'P', 'Y', 'G'],
      ['R', 'P', 'Y', 'O'],
      ['Y', 'B', 'G', 'O'],
      ['Y', 'B', 'G', 'R'],
      ['Y', 'B', 'G', 'P'],
      ['Y', 'B', 'O', 'G'],
      ['Y', 'B', 'O', 'R'],
      ['Y', 'B', 'O', 'P'],
      ['Y', 'B', 'R', 'G'],
      ['Y', 'B', 'R', 'O'],
      ['Y', 'B', 'R', 'P'],
      ['Y', 'B', 'P', 'G'],
      ['Y', 'B', 'P', 'O'],
      ['Y', 'B', 'P', 'R'],
      ['Y', 'G', 'B', 'O'],
      ['Y', 'G', 'B', 'R'],
      ['Y', 'G', 'B', 'P'],
      ['Y', 'G', 'O', 'B'],
      ['Y', 'G', 'O', 'R'],
      ['Y', 'G', 'O', 'P'],
      ['Y', 'G', 'R', 'B'],
      ['Y', 'G', 'R', 'O'],
      ['Y', 'G', 'R', 'P'],
      ['Y', 'G', 'P', 'B'],
      ['Y', 'G', 'P', 'O'],
      ['Y', 'G', 'P', 'R'],
      ['Y', 'O', 'B', 'G'],
      ['Y', 'O', 'B', 'R'],
      ['Y', 'O', 'B', 'P'],
      ['Y', 'O', 'G', 'B'],
      ['Y', 'O', 'G', 'R'],
      ['Y', 'O', 'G', 'P'],
      ['Y', 'O', 'R', 'B'],
      ['Y', 'O', 'R', 'G'],
      ['Y', 'O', 'R', 'P'],
      ['Y', 'O', 'P', 'B'],
      ['Y', 'O', 'P', 'G'],
      ['Y', 'O', 'P', 'R'],
      ['Y', 'R', 'B', 'G'],
      ['Y', 'R', 'B', 'O'],
      ['Y', 'R', 'B', 'P'],
      ['Y', 'R', 'G', 'B'],
      ['Y', 'R', 'G', 'O'],
      ['Y', 'R', 'G', 'P'],
      ['Y', 'R', 'O', 'B'],
      ['Y', 'R', 'O', 'G'],
      ['Y', 'R', 'O', 'P'],
      ['Y', 'R', 'P', 'B'],
      ['Y', 'R', 'P', 'G'],
      ['Y', 'R', 'P', 'O'],
      ['Y', 'P', 'B', 'G'],
      ['Y', 'P', 'B', 'O'],
      ['Y', 'P', 'B', 'R'],
      ['Y', 'P', 'G', 'B'],
      ['Y', 'P', 'G', 'O'],
      ['Y', 'P', 'G', 'R'],
      ['Y', 'P', 'O', 'B'],
      ['Y', 'P', 'O', 'G'],
      ['Y', 'P', 'O', 'R'],
      ['Y', 'P', 'R', 'B'],
      ['Y', 'P', 'R', 'G'],
      ['Y', 'P', 'R', 'O'],
      ['P', 'B', 'G', 'O'],
      ['P', 'B', 'G', 'R'],
      ['P', 'B', 'G', 'Y'],
      ['P', 'B', 'O', 'G'],
      ['P', 'B', 'O', 'R'],
      ['P', 'B', 'O', 'Y'],
      ['P', 'B', 'R', 'G'],
      ['P', 'B', 'R', 'O'],
      ['P', 'B', 'R', 'Y'],
      ['P', 'B', 'Y', 'G'],
      ['P', 'B', 'Y', 'O'],
      ['P', 'B', 'Y', 'R'],
      ['P', 'G', 'B', 'O'],
      ['P', 'G', 'B', 'R'],
      ['P', 'G', 'B', 'Y'],
      ['P', 'G', 'O', 'B'],
      ['P', 'G', 'O', 'R'],
      ['P', 'G', 'O', 'Y'],
      ['P', 'G', 'R', 'B'],
      ['P', 'G', 'R', 'O'],
      ['P', 'G', 'R', 'Y'],
      ['P', 'G', 'Y', 'B'],
      ['P', 'G', 'Y', 'O'],
      ['P', 'G', 'Y', 'R'],
      ['P', 'O', 'B', 'G'],
      ['P', 'O', 'B', 'R'],
      ['P', 'O', 'B', 'Y'],
      ['P', 'O', 'G', 'B'],
      ['P', 'O', 'G', 'R'],
      ['P', 'O', 'G', 'Y'],
      ['P', 'O', 'R', 'B'],
      ['P', 'O', 'R', 'G'],
      ['P', 'O', 'R', 'Y'],
      ['P', 'O', 'Y', 'B'],
      ['P', 'O', 'Y', 'G'],
      ['P', 'O', 'Y', 'R'],
      ['P', 'R', 'B', 'G'],
      ['P', 'R', 'B', 'O'],
      ['P', 'R', 'B', 'Y'],
      ['P', 'R', 'G', 'B'],
      ['P', 'R', 'G', 'O'],
      ['P', 'R', 'G', 'Y'],
      ['P', 'R', 'O', 'B'],
      ['P', 'R', 'O', 'G'],
      ['P', 'R', 'O', 'Y'],
      ['P', 'R', 'Y', 'B'],
      ['P', 'R', 'Y', 'G'],
      ['P', 'R', 'Y', 'O'],
      ['P', 'Y', 'B', 'G'],
      ['P', 'Y', 'B', 'O'],
      ['P', 'Y', 'B', 'R'],
      ['P', 'Y', 'G', 'B'],
      ['P', 'Y', 'G', 'O'],
      ['P', 'Y', 'G', 'R'],
      ['P', 'Y', 'O', 'B'],
      ['P', 'Y', 'O', 'G'],
      ['P', 'Y', 'O', 'R'],
      ['P', 'Y', 'R', 'B'],
      ['P', 'Y', 'R', 'G'],
      ['P', 'Y', 'R', 'O']] : List Code),
    ∃ k : Nat, k ≤ 6 ∧ (loopRun (honest s) 7 none S0 []).1 = RunResult.solved s k :=
  List.forall_mem_cons.mpr ⟨⟨3, by decide, fst_of_eq rs160⟩,
  List.forall_mem_cons.mpr ⟨⟨5, by decide, fst_of_eq rs161⟩,
  List.forall_mem_cons.mpr ⟨⟨5, by decide, fst_of_eq rs162⟩,
  List.forall_mem_cons.mpr ⟨⟨4, by decide, fst_of_eq rs163⟩,
  List.forall_mem_cons.mpr ⟨⟨4, by decide, fst_of_eq rs164⟩,
  List.forall_mem_cons.mpr ⟨⟨4, by decide, fst_of_eq rs165⟩,
  List.forall_mem_cons.mpr ⟨⟨5, by decide, fst_of_eq rs166⟩,
  List.forall_mem_cons.mpr ⟨⟨4, by decide, fst_of_eq rs167⟩,
  List.forall_mem_cons.mpr ⟨⟨5, by decide, fst_of_eq rs168⟩,
  List.forall_mem_cons.mpr ⟨⟨5, by decide, fst_of_eq rs169⟩,
  tl17⟩⟩⟩⟩⟩⟩⟩⟩⟩⟩


lemma tl15 : ∀ s ∈ ([['O', 'R', 'Y', 'B'],
      ['O', 'R', 'Y', 'G'],
      ['O', 'R', 'Y', 'P'],
      ['O', 'R', 'P', 'B'],
      ['O', 'R', 'P', 'G'],
      ['O', 'R', 'P', 'Y'],
      ['O', 'Y', 'B', 'G'],
      ['O', 'Y', 'B', 'R'],
      ['O', 'Y', 'B', 'P'],
      ['O', 'Y', 'G', 'B'],
      ['O', 'Y', 'G', 'R'],
      ['O', 'Y', 'G', 'P'],
      ['O', 'Y', 'R', 'B'],
      ['O', 'Y', 'R', 'G'],
      ['O', 'Y', 'R', 'P'],
      ['O', 'Y', 'P', 'B'],
      ['O', 'Y', 'P', 'G'],
      ['O', 'Y', 'P', 'R'],
      ['O', 'P', 'B', 'G'],
      ['O', 'P', 'B', 'R'],
      ['O', 'P', 'B', 'Y'],
      ['O', 'P', 'G', 'B'],
      ['O', 'P', 'G', 'R'],
      ['O', 'P', 'G', 'Y'],
      ['O', 'P', 'R', 'B'],
      ['O', 'P', 'R', 'G'],
      ['O', 'P', 'R', 'Y'],
      ['O', 'P', 'Y', 'B'],
      ['O', 'P', 'Y', 'G'],
      ['O', 'P', 'Y', 'R'],
      ['R', 'B', 'G', 'O'],
      ['R', 'B', 'G', 'Y'],
      ['R', 'B', 'G', 'P'],
      ['R', 'B', 'O', 'G'],
      ['R', 'B', 'O', 'Y'],
      ['R', 'B', 'O', 'P'],
      ['R', 'B', 'Y', 'G'],
      ['R', 'B', 'Y', 'O'],
      ['R', 'B', 'Y', 'P'],
      ['R', 'B', 'P', 'G'],
      ['R', 'B', 'P', 'O'],
      ['R', 'B', 'P', 'Y'],
      ['R', 'G', 'B', 'O'],
      ['R', 'G', 'B', 'Y'],
      ['R', 'G', 'B', 'P'],
      ['R', 'G', 'O', 'B'],
      ['R', 'G', 'O', 'Y'],
      ['R', 'G', 'O', 'P'],
      ['R', 'G', 'Y', 'B'],
      ['R', 'G', 'Y', 'O'],
      ['R', 'G', 'Y', 'P'],
      ['R', 'G', 'P', 'B'],
      ['R', 'G', 'P', 'O'],
      ['R', 'G', 'P', 'Y'],
      ['R', 'O', 'B', 'G'],
      ['R', 'O', 'B', 'Y'],
      ['R', 'O', 'B', 'P'],
      ['R', 'O', 'G', 'B'],
      ['R', 'O', 'G', 'Y'],
      ['R', 'O', 'G', 'P'],
      ['R', 'O', 'Y', 'B'],
      ['R', 'O', 'Y', 'G'],
      ['R', 'O', 'Y', 'P'],
      ['R', 'O', 'P', 'B'],
      ['R', 'O', 'P', 'G'],
      ['R', 'O', 'P', 'Y'],
      ['R', 'Y', 'B', 'G'],
      ['R', 'Y', 'B', 'O'],
      ['R', 'Y', 'B', 'P'],
      ['R', 'Y', 'G', 'B'],
      ['R', 'Y', 'G', 'O'],
      ['R', 'Y', 'G', 'P'],
      ['R', 'Y', 'O', 'B'],
      ['R', 'Y', 'O', 'G'],
      ['R', 'Y', 'O', 'P'],
      ['R', 'Y', 'P', 'B'],
      ['R', 'Y', 'P', 'G'],
      ['R', 'Y', 'P', 'O'],
      ['R', 'P', 'B', 'G'],
      ['R', 'P', 'B', 'O'],
      ['R', 'P', 'B', 'Y'],
      ['R', 'P', 'G', 'B'],
      ['R', 'P', 'G', 'O'],
      ['R', 'P', 'G', 'Y'],
      ['R', 'P', 'O', 'B'],
      ['R', 'P', 'O', 'G'],
      ['R', 'P', 'O', 'Y'],
      ['R', 'P', 'Y', 'B'],
      ['R', 'P', 'Y', 'G'],
      ['R', 'P', 'Y', 'O'],
      ['Y', 'B', 'G', 'O'],
      ['Y', 'B', 'G', 'R'],
      ['Y', 'B', 'G', 'P'],
      ['Y', 'B', 'O', 'G'],
      ['Y', 'B', 'O', 'R'],
      ['Y', 'B', 'O', 'P'],
      ['Y', 'B', 'R', 'G'],
      ['Y', 'B', 'R', 'O'],
      ['Y', 'B', 'R', 'P'],
      ['Y', 'B', 'P', 'G'],
      ['Y', 'B', 'P', 'O'],
      ['Y', 'B', 'P', 'R'],
      ['Y', 'G', 'B', 'O'],
      ['Y', 'G', 'B', 'R'],
      ['Y', 'G', 'B', 'P'],
      ['Y', 'G', 'O', 'B'],
      ['Y', 'G', 'O', 'R'],
      ['Y', 'G', 'O', 'P'],
      ['Y', 'G', 'R', 'B'],
      ['Y', 'G', 'R', 'O'],
      ['Y', 'G', 'R', 'P'],
      ['Y', 'G', 'P', 'B'],
      ['Y', 'G', 'P', 'O'],
      ['Y', 'G', 'P', 'R'],
      ['Y', 'O', 'B', 'G'],
      ['Y', 'O', 'B', 'R'],
      ['Y', 'O', 'B', 'P'],
      ['Y', 'O', 'G', 'B'],
      ['Y', 'O', 'G', 'R'],
      ['Y', 'O', 'G', 'P'],
      ['Y', 'O', 'R', 'B'],
      ['Y', 'O', 'R', 'G'],
      ['Y', 'O', 'R', 'P'],
      ['Y', 'O', 'P', 'B'],
      ['Y', 'O', 'P', 'G'],
      ['Y', 'O', 'P', 'R'],
      ['Y', 'R', 'B', 'G'],
      ['Y', 'R', 'B', 'O'],
      ['Y', 'R', 'B', 'P'],
      ['Y', 'R', 'G', 'B'],
      ['Y', 'R', 'G', 'O'],
      ['Y', 'R', 'G', 'P'],
      ['Y', 'R', 'O', 'B'],
      ['Y', 'R', 'O', 'G'],
      ['Y', 'R', 'O', 'P'],
      ['Y', 'R', 'P', 'B'],
      ['Y', 'R', 'P', 'G'],
      ['Y', 'R', 'P', 'O'],
      ['Y', 'P', 'B', 'G'],
      ['Y', 'P', 'B', 'O'],
      ['Y', 'P', 'B', 'R'],
      ['Y', 'P', 'G', 'B'],
      ['Y', 'P', 'G', 'O'],
      ['Y', 'P', 'G', 'R'],
      ['Y', 'P', 'O', 'B'],
      ['Y', 'P', 'O', 'G'],
      ['Y', 'P', 'O', 'R'],
      ['Y', 'P', 'R', 'B'],
      ['Y', 'P', 'R', 'G'],
      ['Y', 'P', 'R', 'O'],
      ['P', 'B', 'G', 'O'],
      ['P', 'B', 'G', 'R'],
      ['P', 'B', 'G', 'Y'],
      ['P', 'B', 'O', 'G'],
      ['P', 'B', 'O', 'R'],
      ['P', 'B', 'O', 'Y'],
      ['P', 'B', 'R', 'G'],
      ['P', 'B', 'R', 'O'],
      ['P', 'B', 'R', 'Y'],
      ['P', 'B', 'Y', 'G'],
      ['P', 'B', 'Y', 'O'],
      ['P', 'B', 'Y', 'R'],
      ['P', 'G', 'B', 'O'],
      ['P', 'G', 'B', 'R'],
      ['P', 'G', 'B', 'Y'],
      ['P', 'G', 'O', 'B'],
      ['P', 'G', 'O', 'R'],
      ['P', 'G', 'O', 'Y'],
      ['P', 'G', 'R', 'B'],
      ['P', 'G', 'R', 'O'],
      ['P', 'G', 'R', 'Y'],
      ['P', 'G', 'Y', 'B'],
      ['P', 'G', 'Y', 'O'],
      ['P', 'G', 'Y', 'R'],
      ['P', 'O', 'B', 'G'],
      ['P', 'O', 'B', 'R'],
      ['P', 'O', 'B', 'Y'],
      ['P', 'O', 'G', 'B'],
      ['P', 'O', 'G', 'R'],
      ['P', 'O', 'G', 'Y'],
      ['P', 'O', 'R', 'B'],
      ['P', 'O', 'R', 'G'],
      ['P', 'O', 'R', 'Y'],
      ['P', 'O', 'Y', 'B'],
      ['P', 'O', 'Y', 'G'],
      ['P', 'O', 'Y', 'R'],
      ['P', 'R', 'B', 'G'],
      ['P', 'R', 'B', 'O'],
      ['P', 'R', 'B', 'Y'],
      ['P', 'R', 'G', 'B'],
      ['P', 'R', 'G', 'O'],
      ['P', 'R', 'G', 'Y'],
      ['P', 'R', 'O', 'B'],
      ['P', 'R', 'O', 'G'],
      ['P', 'R', 'O', 'Y'],
      ['P', 'R', 'Y', 'B'],
      ['P', 'R', 'Y', 'G'],
      ['P', 'R', 'Y', 'O'],
      ['P', 'Y', 'B', 'G'],
      ['P', 'Y', 'B', 'O'],
      ['P', 'Y', 'B', 'R'],
      ['P', 'Y', 'G', 'B'],
      ['P', 'Y', 'G', 'O'],
      ['P', 'Y', 'G', 'R'],
      ['P', 'Y', 'O', 'B'],
      ['P', 'Y', 'O', 'G'],
      ['P', 'Y', 'O', 'R'],
      ['P', 'Y', 'R', 'B'],
      ['P', 'Y', 'R', 'G'],
      ['P', 'Y', 'R', 'O']] : List Code),
    ∃ k : Nat, k ≤ 6 ∧ (loopRun (honest s) 7 none S0 []).1 = RunResult.solved s k :=
  List.forall_mem_cons.mpr ⟨⟨4, by decide, fst_of_eq rs150⟩,
  List.forall_mem_cons.mpr ⟨⟨3, by decide, fst_of_eq rs151⟩,
  List.forall_mem_cons.mpr ⟨⟨4, by decide, fst_of_eq rs152⟩,
  List.forall_mem_cons.mpr ⟨⟨4, by decide, fst_of_eq rs153⟩,
  List.forall_mem_cons.mpr ⟨⟨4, by decide, fst_of_eq rs154⟩,
  List.forall_mem_cons.mpr ⟨⟨5, by decide, fst_of_eq rs155⟩,
  List.forall_mem_cons.mpr ⟨⟨4, by decide, fst_of_eq rs156⟩,
  List.forall_mem_cons.mpr ⟨⟨3, by decide, fst_of_eq rs157⟩,
  List.forall_mem_cons.mpr ⟨⟨3, by decide, fst_of_eq rs158⟩,
  List.forall_mem_cons.mpr ⟨⟨4, by decide, fst_of_eq rs159⟩,
  tl16⟩⟩⟩⟩⟩⟩⟩⟩⟩⟩


lemma tl14 : ∀ s ∈ ([['O', 'G', 'Y', 'P'],
      ['O', 'G', 'P', 'B'],
      ['O', 'G', 'P', 'R'],
      ['O', 'G', 'P', 'Y'],
      ['O', 'R', 'B', 'G'],
      ['O', 'R', 'B', 'Y'],
      ['O', 'R', 'B', 'P'],
      ['O', 'R', 'G', 'B'],
      ['O', 'R', 'G', 'Y'],
      ['O', 'R', 'G', 'P'],
      ['O', 'R', 'Y', 'B'],
      ['O', 'R', 'Y', 'G'],
      ['O', 'R', 'Y', 'P'],
      ['O', 'R', 'P', 'B'],
      ['O', 'R', 'P', 'G'],
      ['O', 'R', 'P', 'Y'],
      ['O', 'Y', 'B', 'G'],
      ['O', 'Y', 'B', 'R'],
      ['O', 'Y', 'B', 'P'],
      ['O', 'Y', 'G', 'B'],
      ['O', 'Y', 'G', 'R'],
      ['O', 'Y', 'G', 'P'],
      ['O', 'Y', 'R', 'B'],
      ['O', 'Y', 'R', 'G'],
      ['O', 'Y', 'R', 'P'],
      ['O', 'Y', 'P', 'B'],
      ['O', 'Y', 'P', 'G'],
      ['O', 'Y', 'P', 'R'],
      ['O', 'P', 'B', 'G'],
      ['O', 'P', 'B', 'R'],
      ['O', 'P', 'B', 'Y'],
      ['O', 'P', 'G', 'B'],
      ['O', 'P', 'G', 'R'],
      ['O', 'P', 'G', 'Y'],
      ['O', 'P', 'R', 'B'],
      ['O', 'P', 'R', 'G'],
      ['O', 'P', 'R', 'Y'],
      ['O', 'P', 'Y', 'B'],
      ['O', 'P', 'Y', 'G'],
      ['O', 'P', 'Y', 'R'],
      ['R', 'B', 'G', 'O'],
      ['R', 'B', 'G', 'Y'],
      ['R', 'B', 'G', 'P'],
      ['R', 'B', 'O', 'G'],
      ['R', 'B', 'O', 'Y'],
      ['R', 'B', 'O', 'P'],
      ['R', 'B', 'Y', 'G'],
      ['R', 'B', 'Y', 'O'],
      ['R', 'B', 'Y', 'P'],
      ['R', 'B', 'P', 'G'],
      ['R', 'B', 'P', 'O'],
      ['R', 'B', 'P', 'Y'],
      ['R', 'G', 'B', 'O'],
      ['R', 'G', 'B', 'Y'],
      ['R', 'G', 'B', 'P'],
      ['R', 'G', 'O', 'B'],
      ['R', 'G', 'O', 'Y'],
      ['R', 'G', 'O', 'P'],
      ['R', 'G', 'Y', 'B'],
      ['R', 'G', 'Y', 'O'],
      ['R', 'G', 'Y', 'P'],
      ['R', 'G', 'P', 'B'],
      ['R', 'G', 'P', 'O'],
      ['R', 'G', 'P', 'Y'],
      ['R', 'O', 'B', 'G'],
      ['R', 'O', 'B', 'Y'],
      ['R', 'O', 'B', 'P'],
      ['R', 'O', 'G', 'B'],
      ['R', 'O', 'G', 'Y'],
      ['R', 'O', 'G', 'P'],
      ['R', 'O', 'Y', 'B'],
      ['R', 'O', 'Y', 'G'],
      ['R', 'O', 'Y', 'P'],
      ['R', 'O', 'P', 'B'],
      ['R', 'O', 'P', 'G'],
      ['R', 'O', 'P', 'Y'],
      ['R', 'Y', 'B', 'G'],
      ['R', 'Y', 'B', 'O'],
      ['R', 'Y', 'B', 'P'],
      ['R', 'Y', 'G', 'B'],
      ['R', 'Y', 'G', 'O'],
      ['R', 'Y', 'G', 'P'],
      ['R', 'Y', 'O', 'B'],
      ['R', 'Y', 'O', 'G'],
      ['R', 'Y', 'O', 'P'],
      ['R', 'Y', 'P', 'B'],
      ['R', 'Y', 'P', 'G'],
      ['R', 'Y', 'P', 'O'],
      ['R', 'P', 'B', 'G'],
      ['R', 'P', 'B', 'O'],
      ['R', 'P', 'B', 'Y'],
      ['R', 'P', 'G', 'B'],
      ['R', 'P', 'G', 'O'],
      ['R', 'P', 'G', 'Y'],
      ['R', 'P', 'O', 'B'],
      ['R', 'P', 'O', 'G'],
      ['R', 'P', 'O', 'Y'],
      ['R', 'P', 'Y', 'B'],
      ['R', 'P', 'Y', 'G'],
      ['R', 'P', 'Y', 'O'],
      ['Y', 'B', 'G', 'O'],
      ['Y', 'B', 'G', 'R'],
      ['Y', 'B', 'G', 'P'],
      ['Y', 'B', 'O', 'G'],
      ['Y', 'B', 'O', 'R'],
      ['Y', 'B', 'O', 'P'],
      ['Y', 'B', 'R', 'G'],
      ['Y', 'B', 'R', 'O'],
      ['Y', 'B', 'R', 'P'],
      ['Y', 'B', 'P', 'G'],
      ['Y', 'B', 'P', 'O'],
      ['Y', 'B', 'P', 'R'],
      ['Y', 'G', 'B', 'O'],
      ['Y', 'G', 'B', 'R'],
      ['Y', 'G', 'B', 'P'],
      ['Y', 'G', 'O', 'B'],
      ['Y', 'G', 'O', 'R'],
      ['Y', 'G', 'O', 'P'],
      ['Y', 'G', 'R', 'B'],
      ['Y', 'G', 'R', 'O'],
      ['Y', 'G', 'R', 'P'],
      ['Y', 'G', 'P', 'B'],
      ['Y', 'G', 'P', 'O'],
      ['Y', 'G', 'P', 'R'],
      ['Y', 'O', 'B', 'G'],
      ['Y', 'O', 'B', 'R'],
      ['Y', 'O', 'B', 'P'],
      ['Y', 'O', 'G', 'B'],
      ['Y', 'O', 'G', 'R'],
      ['Y', 'O', 'G', 'P'],
      ['Y', 'O', 'R', 'B'],
      ['Y', 'O', 'R', 'G'],
      ['Y', 'O', 'R', 'P'],
      ['Y', 'O', 'P', 'B'],
      ['Y', 'O', 'P', 'G'],
      ['Y', 'O', 'P', 'R'],
      ['Y', 'R', 'B', 'G'],
      ['Y', 'R', 'B', 'O'],
      ['Y', 'R', 'B', 'P'],
      ['Y', 'R', 'G', 'B'],
      ['Y', 'R', 'G', 'O'],
      ['Y', 'R', 'G', 'P'],
      ['Y', 'R', 'O', 'B'],
      ['Y', 'R', 'O', 'G'],
      ['Y', 'R', 'O', 'P'],
      ['Y', 'R', 'P', 'B'],
      ['Y', 'R', 'P', 'G'],
      ['Y', 'R', 'P', 'O'],
      ['Y', 'P', 'B', 'G'],
      ['Y', 'P', 'B', 'O'],
      ['Y', 'P', 'B', 'R'],
      ['Y', 'P', 'G', 'B'],
      ['Y', 'P', 'G', 'O'],
      ['Y', 'P', 'G', 'R'],
      ['Y', 'P', 'O', 'B'],
      ['Y', 'P', 'O', 'G'],
      ['Y', 'P', 'O', 'R'],
      ['Y', 'P', 'R', 'B'],
      ['Y', 'P', 'R', 'G'],
      ['Y', 'P', 'R', 'O'],
      ['P', 'B', 'G', 'O'],
      ['P', 'B', 'G', 'R'],
      ['P', 'B', 'G', 'Y'],
      ['P', 'B', 'O', 'G'],
      ['P', 'B', 'O', 'R'],
      ['P', 'B', 'O', 'Y'],
      ['P', 'B', 'R', 'G'],
      ['P', 'B', 'R', 'O'],
      ['P', 'B', 'R', 'Y'],
      ['P', 'B', 'Y', 'G'],
      ['P', 'B', 'Y', 'O'],
      ['P', 'B', 'Y', 'R'],
      ['P', 'G', 'B', 'O'],
      ['P', 'G', 'B', 'R'],
      ['P', 'G', 'B', 'Y'],
      ['P', 'G', 'O', 'B'],
      ['P', 'G', 'O', 'R'],
      ['P', 'G', 'O', 'Y'],
      ['P', 'G', 'R', 'B'],
      ['P', 'G', 'R', 'O'],
      ['P', 'G', 'R', 'Y'],
      ['P', 'G', 'Y', 'B'],
      ['P', 'G', 'Y', 'O'],
      ['P', 'G', 'Y', 'R'],
      ['P', 'O', 'B', 'G'],
      ['P', 'O', 'B', 'R'],
      ['P', 'O', 'B', 'Y'],
      ['P', 'O', 'G', 'B'],
      ['P', 'O', 'G', 'R'],
      ['P', 'O', 'G', 'Y'],
      ['P', 'O', 'R', 'B'],
      ['P', 'O', 'R', 'G'],
      ['P', 'O', 'R', 'Y'],
      ['P', 'O', 'Y', 'B'],
      ['P', 'O', 'Y', 'G'],
      ['P', 'O', 'Y', 'R'],
      ['P', 'R', 'B', 'G'],
      ['P', 'R', 'B', 'O'],
      ['P', 'R', 'B', 'Y'],
      ['P', 'R', 'G', 'B'],
      ['P', 'R', 'G', 'O'],
      ['P', 'R', 'G', 'Y'],
      ['P', 'R', 'O', 'B'],
      ['P', 'R', 'O', 'G'],
      ['P', 'R', 'O', 'Y'],
      ['P', 'R', 'Y', 'B'],
      ['P', 'R', 'Y', 'G'],
      ['P', 'R', 'Y', 'O'],
      ['P', 'Y', 'B', 'G'],
      ['P', 'Y', 'B', 'O'],
      ['P', 'Y', 'B', 'R'],
      ['P', 'Y', 'G', 'B'],
      ['P', 'Y', 'G', 'O'],
      ['P', 'Y', 'G', 'R'],
      ['P', 'Y', 'O', 'B'],
      ['P', 'Y', 'O', 'G'],
      ['P', 'Y', 'O', 'R'],
      ['P', 'Y', 'R', 'B'],
      ['P', 'Y', 'R', 'G'],
      ['P', 'Y', 'R', 'O']] : List Code),
    ∃ k : Nat, k ≤ 6 ∧ (loopRun (honest s) 7 none S0 []).1 = RunResult.solved s k :=
  List.forall_mem_cons.mpr ⟨⟨4, by decide, fst_of_eq rs140⟩,
  List.forall_mem_cons.mpr ⟨⟨4, by decide, fst_of_eq rs141⟩,
  List.forall_mem_cons.mpr ⟨⟨4, by decide, fst_of_eq rs142⟩,
  List.forall_mem_cons.mpr ⟨⟨4, by decide, fst_of_eq rs143⟩,
  List.forall_mem_cons.mpr ⟨⟨3, by decide, fst_of_eq rs144⟩,
  List.forall_mem_cons.mpr ⟨⟨4, by decide, fst_of_eq rs145⟩,
  List.forall_mem_cons.mpr ⟨⟨5, by decide, fst_of_eq rs146⟩,
  List.forall_mem_cons.mpr ⟨⟨4, by decide, fst_of_eq rs147⟩,
  List.forall_mem_cons.mpr ⟨⟨4, by decide, fst_of_eq rs148⟩,
  List.forall_mem_cons.mpr ⟨⟨4, by decide, fst_of_eq rs149⟩,
  tl15⟩⟩⟩⟩⟩⟩⟩⟩⟩⟩


lemma tl13 : ∀ s ∈ ([['O', 'B', 'P', 'R'],
      ['O', 'B', 'P', 'Y'],
      ['O', 'G', 'B', 'R'],
      ['O', 'G', 'B', 'Y'],
      ['O', 'G', 'B', 'P'],
      ['O', 'G', 'R', 'B'],
      ['O', 'G', 'R', 'Y'],
      ['O', 'G', 'R', 'P'],
      ['O', 'G', 'Y', 'B'],
      ['O', 'G', 'Y', 'R'],
      ['O', 'G', 'Y', 'P'],
      ['O', 'G', 'P', 'B'],
      ['O', 'G', 'P', 'R'],
      ['O', 'G', 'P', 'Y'],
      ['O', 'R', 'B', 'G'],
      ['O', 'R', 'B', 'Y'],
      ['O', 'R', 'B', 'P'],
      ['O', 'R', 'G', 'B'],
      ['O', 'R', 'G', 'Y'],
      ['O', 'R', 'G', 'P'],
      ['O', 'R', 'Y', 'B'],
      ['O', 'R', 'Y', 'G'],
      ['O', 'R', 'Y', 'P'],
      ['O', 'R', 'P', 'B'],
      ['O', 'R', 'P', 'G'],
      ['O', 'R', 'P', 'Y'],
      ['O', 'Y', 'B', 'G'],
      ['O', 'Y', 'B', 'R'],
      ['O', 'Y', 'B', 'P'],
      ['O', 'Y', 'G', 'B'],
      ['O', 'Y', 'G', 'R'],
      ['O', 'Y', 'G', 'P'],
      ['O', 'Y', 'R', 'B'],
      ['O', 'Y', 'R', 'G'],
      ['O', 'Y', 'R', 'P'],
      ['O', 'Y', 'P', 'B'],
      ['O', 'Y', 'P', 'G'],
      ['O', 'Y', 'P', 'R'],
      ['O', 'P', 'B', 'G'],
      ['O', 'P', 'B', 'R'],
      ['O', 'P', 'B', 'Y'],
      ['O', 'P', 'G', 'B'],
      ['O', 'P', 'G', 'R'],
      ['O', 'P', 'G', 'Y'],
      ['O', 'P', 'R', 'B'],
      ['O', 'P', 'R', 'G'],
      ['O', 'P', 'R', 'Y'],
      ['O', 'P', 'Y', 'B'],
      ['O', 'P', 'Y', 'G'],
      ['O', 'P', 'Y', 'R'],
      ['R', 'B', 'G', 'O'],
      ['R', 'B', 'G', 'Y'],
      ['R', 'B', 'G', 'P'],
      ['R', 'B', 'O', 'G'],
      ['R', 'B', 'O', 'Y'],
      ['R', 'B', 'O', 'P'],
      ['R', 'B', 'Y', 'G'],
      ['R', 'B', 'Y', 'O'],
      ['R', 'B', 'Y', 'P'],
      ['R', 'B', 'P', 'G'],
      ['R', 'B', 'P', 'O'],
      ['R', 'B', 'P', 'Y'],
      ['R', 'G', 'B', 'O'],
      ['R', 'G', 'B', 'Y'],
      ['R', 'G', 'B', 'P'],
      ['R', 'G', 'O', 'B'],
      ['R', 'G', 'O', 'Y'],
      ['R', 'G', 'O', 'P'],
      ['R', 'G', 'Y', 'B'],
      ['R', 'G', 'Y', 'O'],
      ['R', 'G', 'Y', 'P'],
      ['R', 'G', 'P', 'B'],
      ['R', 'G', 'P', 'O'],
      ['R', 'G', 'P', 'Y'],
      ['R', 'O', 'B', 'G'],
      ['R', 'O', 'B', 'Y'],
      ['R', 'O', 'B', 'P'],
      ['R', 'O', 'G', 'B'],
      ['R', 'O', 'G', 'Y'],
      ['R', 'O', 'G', 'P'],
      ['R', 'O', 'Y', 'B'],
      ['R', 'O', 'Y', 'G'],
      ['R', 'O', 'Y', 'P'],
      ['R', 'O', 'P', 'B'],
      ['R', 'O', 'P', 'G'],
      ['R', 'O', 'P', 'Y'],
      ['R', 'Y', 'B', 'G'],
      ['R', 'Y', 'B', 'O'],
      ['R', 'Y', 'B', 'P'],
      ['R', 'Y', 'G', 'B'],
      ['R', 'Y', 'G', 'O'],
      ['R', 'Y', 'G', 'P'],
      ['R', 'Y', 'O', 'B'],
      ['R', 'Y', 'O', 'G'],
      ['R', 'Y', 'O', 'P'],
      ['R', 'Y', 'P', 'B'],
      ['R', 'Y', 'P', 'G'],
      ['R', 'Y', 'P', 'O'],
      ['R', 'P', 'B', 'G'],
      ['R', 'P', 'B', 'O'],
      ['R', 'P', 'B', 'Y'],
      ['R', 'P', 'G', 'B'],
      ['R', 'P', 'G', 'O'],
      ['R', 'P', 'G', 'Y'],
      ['R', 'P', 'O', 'B'],
      ['R', 'P', 'O', 'G'],
      ['R', 'P', 'O', 'Y'],
      ['R', 'P', 'Y', 'B'],
      ['R', 'P', 'Y', 'G'],
      ['R', 'P', 'Y', 'O'],
      ['Y', 'B', 'G', 'O'],
      ['Y', 'B', 'G', 'R'],
      ['Y', 'B', 'G', 'P'],
      ['Y', 'B', 'O', 'G'],
      ['Y', 'B', 'O', 'R'],
      ['Y', 'B', 'O', 'P'],
      ['Y', 'B', 'R', 'G'],
      ['Y', 'B', 'R', 'O'],
      ['Y', 'B', 'R', 'P'],
      ['Y', 'B', 'P', 'G'],
      ['Y', 'B', 'P', 'O'],
      ['Y', 'B', 'P', 'R'],
      ['Y', 'G', 'B', 'O'],
      ['Y', 'G', 'B', 'R'],
      ['Y', 'G', 'B', 'P'],
      ['Y', 'G', 'O', 'B'],
      ['Y', 'G', 'O', 'R'],
      ['Y', 'G', 'O', 'P'],
      ['Y', 'G', 'R', 'B'],
      ['Y', 'G', 'R', 'O'],
      ['Y', 'G', 'R', 'P'],
      ['Y', 'G', 'P', 'B'],
      ['Y', 'G', 'P', 'O'],
      ['Y', 'G', 'P', 'R'],
      ['Y', 'O', 'B', 'G'],
      ['Y', 'O', 'B', 'R'],
      ['Y', 'O', 'B', 'P'],
      ['Y', 'O', 'G', 'B'],
      ['Y', 'O', 'G', 'R'],
      ['Y', 'O', 'G', 'P'],
      ['Y', 'O', 'R', 'B'],
      ['Y', 'O', 'R', 'G'],
      ['Y', 'O', 'R', 'P'],
      ['Y', 'O', 'P', 'B'],
      ['Y', 'O', 'P', 'G'],
      ['Y', 'O', 'P', 'R'],
      ['Y', 'R', 'B', 'G'],
      ['Y', 'R', 'B', 'O'],
      ['Y', 'R', 'B', 'P'],
      ['Y', 'R', 'G', 'B'],
      ['Y', 'R', 'G', 'O'],
      ['Y', 'R', 'G', 'P'],
      ['Y', 'R', 'O', 'B'],
      ['Y', 'R', 'O', 'G'],
      ['Y', 'R', 'O', 'P'],
      ['Y', 'R', 'P', 'B'],
      ['Y', 'R', 'P', 'G'],
      ['Y', 'R', 'P', 'O'],
      ['Y', 'P', 'B', 'G'],
      ['Y', 'P', 'B', 'O'],
      ['Y', 'P', 'B', 'R'],
      ['Y', 'P', 'G', 'B'],
      ['Y', 'P', 'G', 'O'],
      ['Y', 'P', 'G', 'R'],
      ['Y', 'P', 'O', 'B'],
      ['Y', 'P', 'O', 'G'],
      ['Y', 'P', 'O', 'R'],
      ['Y', 'P', 'R', 'B'],
      ['Y', 'P', 'R', 'G'],
      ['Y', 'P', 'R', 'O'],
      ['P', 'B', 'G', 'O'],
      ['P', 'B', 'G', 'R'],
      ['P', 'B', 'G', 'Y'],
      ['P', 'B', 'O', 'G'],
      ['P', 'B', 'O', 'R'],
      ['P', 'B', 'O', 'Y'],
      ['P', 'B', 'R', 'G'],
      ['P', 'B', 'R', 'O'],
      ['P', 'B', 'R', 'Y'],
      ['P', 'B', 'Y', 'G'],
      ['P', 'B', 'Y', 'O'],
      ['P', 'B', 'Y', 'R'],
      ['P', 'G', 'B', 'O'],
      ['P', 'G', 'B', 'R'],
      ['P', 'G', 'B', 'Y'],
      ['P', 'G', 'O', 'B'],
      ['P', 'G', 'O', 'R'],
      ['P', 'G', 'O', 'Y'],
      ['P', 'G', 'R', 'B'],
      ['P', 'G', 'R', 'O'],
      ['P', 'G', 'R', 'Y'],
      ['P', 'G', 'Y', 'B'],
      ['P', 'G', 'Y', 'O'],
      ['P', 'G', 'Y', 'R'],
      ['P', 'O', 'B', 'G'],
      ['P', 'O', 'B', 'R'],
      ['P', 'O', 'B', 'Y'],
      ['P', 'O', 'G', 'B'],
      ['P', 'O', 'G', 'R'],
      ['P', 'O', 'G', 'Y'],
      ['P', 'O', 'R', 'B'],
      ['P', 'O', 'R', 'G'],
      ['P', 'O', 'R', 'Y'],
      ['P', 'O', 'Y', 'B'],
      ['P', 'O', 'Y', 'G'],
      ['P', 'O', 'Y', 'R'],
      ['P', 'R', 'B', 'G'],
      ['P', 'R', 'B', 'O'],
      ['P', 'R', 'B', 'Y'],
      ['P', 'R', 'G', 'B'],
      ['P', 'R', 'G', 'O'],
      ['P', 'R', 'G', 'Y'],
      ['P', 'R', 'O', 'B'],
      ['P', 'R', 'O', 'G'],
      ['P', 'R', 'O', 'Y'],
      ['P', 'R', 'Y', 'B'],
      ['P', 'R', 'Y', 'G'],
      ['P', 'R', 'Y', 'O'],
      ['P', 'Y', 'B', 'G'],
      ['P', 'Y', 'B', 'O'],
      ['P', 'Y', 'B', 'R'],
      ['P', 'Y', 'G', 'B'],
      ['P', 'Y', 'G', 'O'],
      ['P', 'Y', 'G', 'R'],
      ['P', 'Y', 'O', 'B'],
      ['P', 'Y', 'O', 'G'],
      ['P', 'Y', 'O', 'R'],
      ['P', 'Y', 'R', 'B'],
      ['P', 'Y', 'R', 'G'],
      ['P', 'Y', 'R', 'O']] : List Code),
    ∃ k : Nat, k ≤ 6 ∧ (loopRun (honest s) 7 none S0 []).1 = RunResult.solved s k :=
  List.forall_mem_cons.mpr ⟨⟨4, by decide, fst_of_eq rs130⟩,
  List.forall_mem_cons.mpr ⟨⟨3, by decide, fst_of_eq rs131⟩,
  List.forall_mem_cons.mpr ⟨⟨5, by decide, fst_of_eq rs132⟩,
  List.forall_mem_cons.mpr ⟨⟨5, by decide, fst_of_eq rs133⟩,
  List.forall_mem_cons.mpr ⟨⟨4, by decide, fst_of_eq rs134⟩,
  List.forall_mem_cons.mpr ⟨⟨5, by decide, fst_of_eq rs135⟩,
  List.forall_mem_cons.mpr ⟨⟨4, by decide, fst_of_eq rs136⟩,
  List.forall_mem_cons.mpr ⟨⟨4, by decide, fst_of_eq rs137⟩,
  List.forall_mem_cons.mpr ⟨⟨5, by decide, fst_of_eq rs138⟩,
  List.forall_mem_cons.mpr ⟨⟨4, by decide, fst_of_eq rs139⟩,
  tl14⟩⟩⟩⟩⟩⟩⟩⟩⟩⟩


lemma tl12 : ∀ s ∈ ([['O', 'B', 'G', 'R'],
      ['O', 'B', 'G', 'Y'],
      ['O', 'B', 'G', 'P'],
      ['O', 'B', 'R', 'G'],
      ['O', 'B', 'R', 'Y'],
      ['O', 'B', 'R', 'P'],
      ['O', 'B', 'Y', 'G'],
      ['O', 'B', 'Y', 'R'],
      ['O', 'B', 'Y', 'P'],
      ['O', 'B', 'P', 'G'],
      ['O', 'B', 'P', 'R'],
      ['O', 'B', 'P', 'Y'],
      ['O', 'G', 'B', 'R'],
      ['O', 'G', 'B', 'Y'],
      ['O', 'G', 'B', 'P'],
      ['O', 'G', 'R', 'B'],
      ['O', 'G', 'R', 'Y'],
      ['O', 'G', 'R', 'P'],
      ['O', 'G', 'Y', 'B'],
      ['O', 'G', 'Y', 'R'],
      ['O', 'G', 'Y', 'P'],
      ['O', 'G', 'P', 'B'],
      ['O', 'G', 'P', 'R'],
      ['O', 'G', 'P', 'Y'],
      ['O', 'R', 'B', 'G'],
      ['O', 'R', 'B', 'Y'],
      ['O', 'R', 'B', 'P'],
      ['O', 'R', 'G', 'B'],
      ['O', 'R', 'G', 'Y'],
      ['O', 'R', 'G', 'P'],
      ['O', 'R', 'Y', 'B'],
      ['O', 'R', 'Y', 'G'],
      ['O', 'R', 'Y', 'P'],
      ['O', 'R', 'P', 'B'],
      ['O', 'R', 'P', 'G'],
      ['O', 'R', 'P', 'Y'],
      ['O', 'Y', 'B', 'G'],
      ['O', 'Y', 'B', 'R'],
      ['O', 'Y', 'B', 'P'],
      ['O', 'Y', 'G', 'B'],
      ['O', 'Y', 'G', 'R'],
      ['O', 'Y', 'G', 'P'],
      ['O', 'Y', 'R', 'B'],
      ['O', 'Y', 'R', 'G'],
      ['O', 'Y', 'R', 'P'],
      ['O', 'Y', 'P', 'B'],
      ['O', 'Y', 'P', 'G'],
      ['O', 'Y', 'P', 'R'],
      ['O', 'P', 'B', 'G'],
      ['O', 'P', 'B', 'R'],
      ['O', 'P', 'B', 'Y'],
      ['O', 'P', 'G', 'B'],
      ['O', 'P', 'G', 'R'],
      ['O', 'P', 'G', 'Y'],
      ['O', 'P', 'R', 'B'],
      ['O', 'P', 'R', 'G'],
      ['O', 'P', 'R', 'Y'],
      ['O', 'P', 'Y', 'B'],
      ['O', 'P', 'Y', 'G'],
      ['O', 'P', 'Y', 'R'],
      ['R', 'B', 'G', 'O'],
      ['R', 'B', 'G', 'Y'],
      ['R', 'B', 'G', 'P'],
      ['R', 'B', 'O', 'G'],
      ['R', 'B', 'O', 'Y'],
      ['R', 'B', 'O', 'P'],
      ['R', 'B', 'Y', 'G'],
      ['R', 'B', 'Y', 'O'],
      ['R', 'B', 'Y', 'P'],
      ['R', 'B', 'P', 'G'],
      ['R', 'B', 'P', 'O'],
      ['R', 'B', 'P', 'Y'],
      ['R', 'G', 'B', 'O'],
      ['R', 'G', 'B', 'Y'],
      ['R', 'G', 'B', 'P'],
      ['R', 'G', 'O', 'B'],
      ['R', 'G', 'O', 'Y'],
      ['R', 'G', 'O', 'P'],
      ['R', 'G', 'Y', 'B'],
      ['R', 'G', 'Y', 'O'],
      ['R', 'G', 'Y', 'P'],
      ['R', 'G', 'P', 'B'],
      ['R', 'G', 'P', 'O'],
      ['R', 'G', 'P', 'Y'],
      ['R', 'O', 'B', 'G'],
      ['R', 'O', 'B', 'Y'],
      ['R', 'O', 'B', 'P'],
      ['R', 'O', 'G', 'B'],
      ['R', 'O', 'G', 'Y'],
      ['R', 'O', 'G', 'P'],
      ['R', 'O', 'Y', 'B'],
      ['R', 'O', 'Y', 'G'],
      ['R', 'O', 'Y', 'P'],
      ['R', 'O', 'P', 'B'],
      ['R', 'O', 'P', 'G'],
      ['R', 'O', 'P', 'Y'],
      ['R', 'Y', 'B', 'G'],
      ['R', 'Y', 'B', 'O'],
      ['R', 'Y', 'B', 'P'],
      ['R', 'Y', 'G', 'B'],
      ['R', 'Y', 'G', 'O'],
      ['R', 'Y', 'G', 'P'],
      ['R', 'Y', 'O', 'B'],
      ['R', 'Y', 'O', 'G'],
      ['R', 'Y', 'O', 'P'],
      ['R', 'Y', 'P', 'B'],
      ['R', 'Y', 'P', 'G'],
      ['R', 'Y', 'P', 'O'],
      ['R', 'P', 'B', 'G'],
      ['R', 'P', 'B', 'O'],
      ['R', 'P', 'B', 'Y'],
      ['R', 'P', 'G', 'B'],
      ['R', 'P', 'G', 'O'],
      ['R', 'P', 'G', 'Y'],
      ['R', 'P', 'O', 'B'],
      ['R', 'P', 'O', 'G'],
      ['R', 'P', 'O', 'Y'],
      ['R', 'P', 'Y', 'B'],
      ['R', 'P', 'Y', 'G'],
      ['R', 'P', 'Y', 'O'],
      ['Y', 'B', 'G', 'O'],
      ['Y', 'B', 'G', 'R'],
      ['Y', 'B', 'G', 'P'],
      ['Y', 'B', 'O', 'G'],
      ['Y', 'B', 'O', 'R'],
      ['Y', 'B', 'O', 'P'],
      ['Y', 'B', 'R', 'G'],
      ['Y', 'B', 'R', 'O'],
      ['Y', 'B', 'R', 'P'],
      ['Y', 'B', 'P', 'G'],
      ['Y', 'B', 'P', 'O'],
      ['Y', 'B', 'P', 'R'],
      ['Y', 'G', 'B', 'O'],
      ['Y', 'G', 'B', 'R'],
      ['Y', 'G', 'B', 'P'],
      ['Y', 'G', 'O', 'B'],
      ['Y', 'G', 'O', 'R'],
      ['Y', 'G', 'O', 'P'],
      ['Y', 'G', 'R', 'B'],
      ['Y', 'G', 'R', 'O'],
      ['Y', 'G', 'R', 'P'],
      ['Y', 'G', 'P', 'B'],
      ['Y', 'G', 'P', 'O'],
      ['Y', 'G', 'P', 'R'],
      ['Y', 'O', 'B', 'G'],
      ['Y', 'O', 'B', 'R'],
      ['Y', 'O', 'B', 'P'],
      ['Y', 'O', 'G', 'B'],
      ['Y', 'O', 'G', 'R'],
      ['Y', 'O', 'G', 'P'],
      ['Y', 'O', 'R', 'B'],
      ['Y', 'O', 'R', 'G'],
      ['Y', 'O', 'R', 'P'],
      ['Y', 'O', 'P', 'B'],
      ['Y', 'O', 'P', 'G'],
      ['Y', 'O', 'P', 'R'],
      ['Y', 'R', 'B', 'G'],
      ['Y', 'R', 'B', 'O'],
      ['Y', 'R', 'B', 'P'],
      ['Y', 'R', 'G', 'B'],
      ['Y', 'R', 'G', 'O'],
      ['Y', 'R', 'G', 'P'],
      ['Y', 'R', 'O', 'B'],
      ['Y', 'R', 'O', 'G'],
      ['Y', 'R', 'O', 'P'],
      ['Y', 'R', 'P', 'B'],
      ['Y', 'R', 'P', 'G'],
      ['Y', 'R', 'P', 'O'],
      ['Y', 'P', 'B', 'G'],
      ['Y', 'P', 'B', 'O'],
      ['Y', 'P', 'B', 'R'],
      ['Y', 'P', 'G', 'B'],
      ['Y', 'P', 'G', 'O'],
      ['Y', 'P', 'G', 'R'],
      ['Y', 'P', 'O', 'B'],
      ['Y', 'P', 'O', 'G'],
      ['Y', 'P', 'O', 'R'],
      ['Y', 'P', 'R', 'B'],
      ['Y', 'P', 'R', 'G'],
      ['Y', 'P', 'R', 'O'],
      ['P', 'B', 'G', 'O'],
      ['P', 'B', 'G', 'R'],
      ['P', 'B', 'G', 'Y'],
      ['P', 'B', 'O', 'G'],
      ['P', 'B', 'O', 'R'],
      ['P', 'B', 'O', 'Y'],
      ['P', 'B', 'R', 'G'],
      ['P', 'B', 'R', 'O'],
      ['P', 'B', 'R', 'Y'],
      ['P', 'B', 'Y', 'G'],
      ['P', 'B', 'Y', 'O'],
      ['P', 'B', 'Y', 'R'],
      ['P', 'G', 'B', 'O'],
      ['P', 'G', 'B', 'R'],
      ['P', 'G', 'B', 'Y'],
      ['P', 'G', 'O', 'B'],
      ['P', 'G', 'O', 'R'],
      ['P', 'G', 'O', 'Y'],
      ['P', 'G', 'R', 'B'],
      ['P', 'G', 'R', 'O'],
      ['P', 'G', 'R', 'Y'],
      ['P', 'G', 'Y', 'B'],
      ['P', 'G', 'Y', 'O'],
      ['P', 'G', 'Y', 'R'],
      ['P', 'O', 'B', 'G'],
      ['P', 'O', 'B', 'R'],
      ['P', 'O', 'B', 'Y'],
      ['P', 'O', 'G', 'B'],
      ['P', 'O', 'G', 'R'],
      ['P', 'O', 'G', 'Y'],
      ['P', 'O', 'R', 'B'],
      ['P', 'O', 'R', 'G'],
      ['P', 'O', 'R', 'Y'],
      ['P', 'O', 'Y', 'B'],
      ['P', 'O', 'Y', 'G'],
      ['P', 'O', 'Y', 'R'],
      ['P', 'R', 'B', 'G'],
      ['P', 'R', 'B', 'O'],
      ['P', 'R', 'B', 'Y'],
      ['P', 'R', 'G', 'B'],
      ['P', 'R', 'G', 'O'],
      ['P', 'R', 'G', 'Y'],
      ['P', 'R', 'O', 'B'],
      ['P', 'R', 'O', 'G'],
      ['P', 'R', 'O', 'Y'],
      ['P', 'R', 'Y', 'B'],
      ['P', 'R', 'Y', 'G'],
      ['P', 'R', 'Y', 'O'],
      ['P', 'Y', 'B', 'G'],
      ['P', 'Y', 'B', 'O'],
      ['P', 'Y', 'B', 'R'],
      ['P', 'Y', 'G', 'B'],
      ['P', 'Y', 'G', 'O'],
      ['P', 'Y', 'G', 'R'],
      ['P', 'Y', 'O', 'B'],
      ['P', 'Y', 'O', 'G'],
      ['P', 'Y', 'O', 'R'],
      ['P', 'Y', 'R', 'B'],
      ['P', 'Y', 'R', 'G'],
      ['P', 'Y', 'R', 'O']] : List Code),
    ∃ k : Nat, k ≤ 6 ∧ (loopRun (honest s) 7 none S0 []).1 = RunResult.solved s k :=
  List.forall_mem_cons.mpr ⟨⟨4, by decide, fst_of_eq rs120⟩,
  List.forall_mem_cons.mpr ⟨⟨4, by decide, fst_of_eq rs121⟩,
  List.forall_mem_cons.mpr ⟨⟨4, by decide, fst_of_eq rs122⟩,
  List.forall_mem_cons.mpr ⟨⟨5, by decide, fst_of_eq rs123⟩,
  List.forall_mem_cons.mpr ⟨⟨4, by decide, fst_of_eq rs124⟩,
  List.forall_mem_cons.mpr ⟨⟨4, by decide, fst_of_eq rs125⟩,
  List.forall_mem_cons.mpr ⟨⟨3, by decide, fst_of_eq rs126⟩,
  List.forall_mem_cons.mpr ⟨⟨4, by decide, fst_of_eq rs127⟩,
  List.forall_mem_cons.mpr ⟨⟨3, by decide, fst_of_eq rs128⟩,
  List.forall_mem_cons.mpr ⟨⟨3, by decide, fst_of_eq rs129⟩,
  tl13⟩⟩⟩⟩⟩⟩⟩⟩⟩⟩


lemma tl11 : ∀ s ∈ ([['G', 'P', 'B', 'Y'],
      ['G', 'P', 'O', 'B'],
      ['G', 'P', 'O', 'R'],
      ['G', 'P', 'O', 'Y'],
      ['G', 'P', 'R', 'B'],
      ['G', 'P', 'R', 'O'],
      ['G', 'P', 'R', 'Y'],
      ['G', 'P', 'Y', 'B'],
      ['G', 'P', 'Y', 'O'],
      ['G', 'P', 'Y', 'R'],
      ['O', 'B', 'G', 'R'],
      ['O', 'B', 'G', 'Y'],
      ['O', 'B', 'G', 'P'],
      ['O', 'B', 'R', 'G'],
      ['O', 'B', 'R', 'Y'],
      ['O', 'B', 'R', 'P'],
      ['O', 'B', 'Y', 'G'],
      ['O', 'B', 'Y', 'R'],
      ['O', 'B', 'Y', 'P'],
      ['O', 'B', 'P', 'G'],
      ['O', 'B', 'P', 'R'],
      ['O', 'B', 'P', 'Y'],
      ['O', 'G', 'B', 'R'],
      ['O', 'G', 'B', 'Y'],
      ['O', 'G', 'B', 'P'],
      ['O', 'G', 'R', 'B'],
      ['O', 'G', 'R', 'Y'],
      ['O', 'G', 'R', 'P'],
      ['O', 'G', 'Y', 'B'],
      ['O', 'G', 'Y', 'R'],
      ['O', 'G', 'Y', 'P'],
      ['O', 'G', 'P', 'B'],
      ['O', 'G', 'P', 'R'],
      ['O', 'G', 'P', 'Y'],
      ['O', 'R', 'B', 'G'],
      ['O', 'R', 'B', 'Y'],
      ['O', 'R', 'B', 'P'],
      ['O', 'R', 'G', 'B'],
      ['O', 'R', 'G', 'Y'],
      ['O', 'R', 'G', 'P'],
      ['O', 'R', 'Y', 'B'],
      ['O', 'R', 'Y', 'G'],
      ['O', 'R', 'Y', 'P'],
      ['O', 'R', 'P', 'B'],
      ['O', 'R', 'P', 'G'],
      ['O', 'R', 'P', 'Y'],
      ['O', 'Y', 'B', 'G'],
      ['O', 'Y', 'B', 'R'],
      ['O', 'Y', 'B', 'P'],
      ['O', 'Y', 'G', 'B'],
      ['O', 'Y', 'G', 'R'],
      ['O', 'Y', 'G', 'P'],
      ['O', 'Y', 'R', 'B'],
      ['O', 'Y', 'R', 'G'],
      ['O', 'Y', 'R', 'P'],
      ['O', 'Y', 'P', 'B'],
      ['O', 'Y', 'P', 'G'],
      ['O', 'Y', 'P', 'R'],
      ['O', 'P', 'B', 'G'],
      ['O', 'P', 'B', 'R'],
      ['O', 'P', 'B', 'Y'],
      ['O', 'P', 'G', 'B'],
      ['O', 'P', 'G', 'R'],
      ['O', 'P', 'G', 'Y'],
      ['O', 'P', 'R', 'B'],
      ['O', 'P', 'R', 'G'],
      ['O', 'P', 'R', 'Y'],
      ['O', 'P', 'Y', 'B'],
      ['O', 'P', 'Y', 'G'],
      ['O', 'P', 'Y', 'R'],
      ['R', 'B', 'G', 'O'],
      ['R', 'B', 'G', 'Y'],
      ['R', 'B', 'G', 'P'],
      ['R', 'B', 'O', 'G'],
      ['R', 'B', 'O', 'Y'],
      ['R', 'B', 'O', 'P'],
      ['R', 'B', 'Y', 'G'],
      ['R', 'B', 'Y', 'O'],
      ['R', 'B', 'Y', 'P'],
      ['R', 'B', 'P', 'G'],
      ['R', 'B', 'P', 'O'],
      ['R', 'B', 'P', 'Y'],
      ['R', 'G', 'B', 'O'],
      ['R', 'G', 'B', 'Y'],
      ['R', 'G', 'B', 'P'],
      ['R', 'G', 'O', 'B'],
      ['R', 'G', 'O', 'Y'],
      ['R', 'G', 'O', 'P'],
      ['R', 'G', 'Y', 'B'],
      ['R', 'G', 'Y', 'O'],
      ['R', 'G', 'Y', 'P'],
      ['R', 'G', 'P', 'B'],
      ['R', 'G', 'P', 'O'],
      ['R', 'G', 'P', 'Y'],
      ['R', 'O', 'B', 'G'],
      ['R', 'O', 'B', 'Y'],
      ['R', 'O', 'B', 'P'],
      ['R', 'O', 'G', 'B'],
      ['R', 'O', 'G', 'Y'],
      ['R', 'O', 'G', 'P'],
      ['R', 'O', 'Y', 'B'],
      ['R', 'O', 'Y', 'G'],
      ['R', 'O', 'Y', 'P'],
      ['R', 'O', 'P', 'B'],
      ['R', 'O', 'P', 'G'],
      ['R', 'O', 'P', 'Y'],
      ['R', 'Y', 'B', 'G'],
      ['R', 'Y', 'B', 'O'],
      ['R', 'Y', 'B', 'P'],
      ['R', 'Y', 'G', 'B'],
      ['R', 'Y', 'G', 'O'],
      ['R', 'Y', 'G', 'P'],
      ['R', 'Y', 'O', 'B'],
      ['R', 'Y', 'O', 'G'],
      ['R', 'Y', 'O', 'P'],
      ['R', 'Y', 'P', 'B'],
      ['R', 'Y', 'P', 'G'],
      ['R', 'Y', 'P', 'O'],
      ['R', 'P', 'B', 'G'],
      ['R', 'P', 'B', 'O'],
      ['R', 'P', 'B', 'Y'],
      ['R', 'P', 'G', 'B'],
      ['R', 'P', 'G', 'O'],
      ['R', 'P', 'G', 'Y'],
      ['R', 'P', 'O', 'B'],
      ['R', 'P', 'O', 'G'],
      ['R', 'P', 'O', 'Y'],
      ['R', 'P', 'Y', 'B'],
      ['R', 'P', 'Y', 'G'],
      ['R', 'P', 'Y', 'O'],
      ['Y', 'B', 'G', 'O'],
      ['Y', 'B', 'G', 'R'],
      ['Y', 'B', 'G', 'P'],
      ['Y', 'B', 'O', 'G'],
      ['Y', 'B', 'O', 'R'],
      ['Y', 'B', 'O', 'P'],
      ['Y', 'B', 'R', 'G'],
      ['Y', 'B', 'R', 'O'],
      ['Y', 'B', 'R', 'P'],
      ['Y', 'B', 'P', 'G'],
      ['Y', 'B', 'P', 'O'],
      ['Y', 'B', 'P', 'R'],
      ['Y', 'G', 'B', 'O'],
      ['Y', 'G', 'B', 'R'],
      ['Y', 'G', 'B', 'P'],
      ['Y', 'G', 'O', 'B'],
      ['Y', 'G', 'O', 'R'],
      ['Y', 'G', 'O', 'P'],
      ['Y', 'G', 'R', 'B'],
      ['Y', 'G', 'R', 'O'],
      ['Y', 'G', 'R', 'P'],
      ['Y', 'G', 'P', 'B'],
      ['Y', 'G', 'P', 'O'],
      ['Y', 'G', 'P', 'R'],
      ['Y', 'O', 'B', 'G'],
      ['Y', 'O', 'B', 'R'],
      ['Y', 'O', 'B', 'P'],
      ['Y', 'O', 'G', 'B'],
      ['Y', 'O', 'G', 'R'],
      ['Y', 'O', 'G', 'P'],
      ['Y', 'O', 'R', 'B'],
      ['Y', 'O', 'R', 'G'],
      ['Y', 'O', 'R', 'P'],
      ['Y', 'O', 'P', 'B'],
      ['Y', 'O', 'P', 'G'],
      ['Y', 'O', 'P', 'R'],
      ['Y', 'R', 'B', 'G'],
      ['Y', 'R', 'B', 'O'],
      ['Y', 'R', 'B', 'P'],
      ['Y', 'R', 'G', 'B'],
      ['Y', 'R', 'G', 'O'],
      ['Y', 'R', 'G', 'P'],
      ['Y', 'R', 'O', 'B'],
      ['Y', 'R', 'O', 'G'],
      ['Y', 'R', 'O', 'P'],
      ['Y', 'R', 'P', 'B'],
      ['Y', 'R', 'P', 'G'],
      ['Y', 'R', 'P', 'O'],
      ['Y', 'P', 'B', 'G'],
      ['Y', 'P', 'B', 'O'],
      ['Y', 'P', 'B', 'R'],
      ['Y', 'P', 'G', 'B'],
      ['Y', 'P', 'G', 'O'],
      ['Y', 'P', 'G', 'R'],
      ['Y', 'P', 'O', 'B'],
      ['Y', 'P', 'O', 'G'],
      ['Y', 'P', 'O', 'R'],
      ['Y', 'P', 'R', 'B'],
      ['Y', 'P', 'R', 'G'],
      ['Y', 'P', 'R', 'O'],
      ['P', 'B', 'G', 'O'],
      ['P', 'B', 'G', 'R'],
      ['P', 'B', 'G', 'Y'],
      ['P', 'B', 'O', 'G'],
      ['P', 'B', 'O', 'R'],
      ['P', 'B', 'O', 'Y'],
      ['P', 'B', 'R', 'G'],
      ['P', 'B', 'R', 'O'],
      ['P', 'B', 'R', 'Y'],
      ['P', 'B', 'Y', 'G'],
      ['P', 'B', 'Y', 'O'],
      ['P', 'B', 'Y', 'R'],
      ['P', 'G', 'B', 'O'],
      ['P', 'G', 'B', 'R'],
      ['P', 'G', 'B', 'Y'],
      ['P', 'G', 'O', 'B'],
      ['P', 'G', 'O', 'R'],
      ['P', 'G', 'O', 'Y'],
      ['P', 'G', 'R', 'B'],
      ['P', 'G', 'R', 'O'],
      ['P', 'G', 'R', 'Y'],
      ['P', 'G', 'Y', 'B'],
      ['P', 'G', 'Y', 'O'],
      ['P', 'G', 'Y', 'R'],
      ['P', 'O', 'B', 'G'],
      ['P', 'O', 'B', 'R'],
      ['P', 'O', 'B', 'Y'],
      ['P', 'O', 'G', 'B'],
      ['P', 'O', 'G', 'R'],
      ['P', 'O', 'G', 'Y'],
      ['P', 'O', 'R', 'B'],
      ['P', 'O', 'R', 'G'],
      ['P', 'O', 'R', 'Y'],
      ['P', 'O', 'Y', 'B'],
      ['P', 'O', 'Y', 'G'],
      ['P', 'O', 'Y', 'R'],
      ['P', 'R', 'B', 'G'],
      ['P', 'R', 'B', 'O'],
      ['P', 'R', 'B', 'Y'],
      ['P', 'R', 'G', 'B'],
      ['P', 'R', 'G', 'O'],
      ['P', 'R', 'G', 'Y'],
      ['P', 'R', 'O', 'B'],
      ['P', 'R', 'O', 'G'],
      ['P', 'R', 'O', 'Y'],
      ['P', 'R', 'Y', 'B'],
      ['P', 'R', 'Y', 'G'],
      ['P', 'R', 'Y', 'O'],
      ['P', 'Y', 'B', 'G'],
      ['P', 'Y', 'B', 'O'],
      ['P', 'Y', 'B', 'R'],
      ['P', 'Y', 'G', 'B'],
      ['P', 'Y', 'G', 'O'],
      ['P', 'Y', 'G', 'R'],
      ['P', 'Y', 'O', 'B'],
      ['P', 'Y', 'O', 'G'],
      ['P', 'Y', 'O', 'R'],
      ['P', 'Y', 'R', 'B'],
      ['P', 'Y', 'R', 'G'],
      ['P', 'Y', 'R', 'O']] : List Code),
    ∃ k : Nat, k ≤ 6 ∧ (loopRun (honest s) 7 none S0 []).1 = RunResult.solved s k :=
  List.forall_mem_cons.mpr ⟨⟨4, by decide, fst_of_eq rs110⟩,
  List.forall_mem_cons.mpr ⟨⟨3, by decide, fst_of_eq rs111⟩,
  List.forall_mem_cons.mpr ⟨⟨3, by decide, fst_of_eq rs112⟩,
  List.forall_mem_cons.mpr ⟨⟨3, by decide, fst_of_eq rs113⟩,
  List.forall_mem_cons.mpr ⟨⟨4, by decide, fst_of_eq rs114⟩,
  List.forall_mem_cons.mpr ⟨⟨4, by decide, fst_of_eq rs115⟩,
  List.forall_mem_cons.mpr ⟨⟨4, by decide, fst_of_eq rs116⟩,
  List.forall_mem_cons.mpr ⟨⟨4, by decide, fst_of_eq rs117⟩,
  List.forall_mem_cons.mpr ⟨⟨4, by decide, fst_of_eq rs118⟩,
  List.forall_mem_cons.mpr ⟨⟨3, by decide, fst_of_eq rs119⟩,
  tl12⟩⟩⟩⟩⟩⟩⟩⟩⟩⟩


lemma tl10 : ∀ s ∈ ([['G', 'Y', 'O', 'R'],
      ['G', 'Y', 'O', 'P'],
      ['G', 'Y', 'R', 'B'],
      ['G', 'Y', 'R', 'O'],
      ['G', 'Y', 'R', 'P'],
      ['G', 'Y', 'P', 'B'],
      ['G', 'Y', 'P', 'O'],
      ['G', 'Y', 'P', 'R'],
      ['G', 'P', 'B', 'O'],
      ['G', 'P', 'B', 'R'],
      ['G', 'P', 'B', 'Y'],
      ['G', 'P', 'O', 'B'],
      ['G', 'P', 'O', 'R'],
      ['G', 'P', 'O', 'Y'],
      ['G', 'P', 'R', 'B'],
      ['G', 'P', 'R', 'O'],
      ['G', 'P', 'R', 'Y'],
      ['G', 'P', 'Y', 'B'],
      ['G', 'P', 'Y', 'O'],
      ['G', 'P', 'Y', 'R'],
      ['O', 'B', 'G', 'R'],
      ['O', 'B', 'G', 'Y'],
      ['O', 'B', 'G', 'P'],
      ['O', 'B', 'R', 'G'],
      ['O', 'B', 'R', 'Y'],
      ['O', 'B', 'R', 'P'],
      ['O', 'B', 'Y', 'G'],
      ['O', 'B', 'Y', 'R'],
      ['O', 'B', 'Y', 'P'],
      ['O', 'B', 'P', 'G'],
      ['O', 'B', 'P', 'R'],
      ['O', 'B', 'P', 'Y'],
      ['O', 'G', 'B', 'R'],
      ['O', 'G', 'B', 'Y'],
      ['O', 'G', 'B', 'P'],
      ['O', 'G', 'R', 'B'],
      ['O', 'G', 'R', 'Y'],
      ['O', 'G', 'R', 'P'],
      ['O', 'G', 'Y', 'B'],
      ['O', 'G', 'Y', 'R'],
      ['O', 'G', 'Y', 'P'],
      ['O', 'G', 'P', 'B'],
      ['O', 'G', 'P', 'R'],
      ['O', 'G', 'P', 'Y'],
      ['O', 'R', 'B', 'G'],
      ['O', 'R', 'B', 'Y'],
      ['O', 'R', 'B', 'P'],
      ['O', 'R', 'G', 'B'],
      ['O', 'R', 'G', 'Y'],
      ['O', 'R', 'G', 'P'],
      ['O', 'R', 'Y', 'B'],
      ['O', 'R', 'Y', 'G'],
      ['O', 'R', 'Y', 'P'],
      ['O', 'R', 'P', 'B'],
      ['O', 'R', 'P', 'G'],
      ['O', 'R', 'P', 'Y'],
      ['O', 'Y', 'B', 'G'],
      ['O', 'Y', 'B', 'R'],
      ['O', 'Y', 'B', 'P'],
      ['O', 'Y', 'G', 'B'],
      ['O', 'Y', 'G', 'R'],
      ['O', 'Y', 'G', 'P'],
      ['O', 'Y', 'R', 'B'],
      ['O', 'Y', 'R', 'G'],
      ['O', 'Y', 'R', 'P'],
      ['O', 'Y', 'P', 'B'],
      ['O', 'Y', 'P', 'G'],
      ['O', 'Y', 'P', 'R'],
      ['O', 'P', 'B', 'G'],
      ['O', 'P', 'B', 'R'],
      ['O', 'P', 'B', 'Y'],
      ['O', 'P', 'G', 'B'],
      ['O', 'P', 'G', 'R'],
      ['O', 'P', 'G', 'Y'],
      ['O', 'P', 'R', 'B'],
      ['O', 'P', 'R', 'G'],
      ['O', 'P', 'R', 'Y'],
      ['O', 'P', 'Y', 'B'],
      ['O', 'P', 'Y', 'G'],
      ['O', 'P', 'Y', 'R'],
      ['R', 'B', 'G', 'O'],
      ['R', 'B', 'G', 'Y'],
      ['R', 'B', 'G', 'P'],
      ['R', 'B', 'O', 'G'],
      ['R', 'B', 'O', 'Y'],
      ['R', 'B', 'O', 'P'],
      ['R', 'B', 'Y', 'G'],
      ['R', 'B', 'Y', 'O'],
      ['R', 'B', 'Y', 'P'],
      ['R', 'B', 'P', 'G'],
      ['R', 'B', 'P', 'O'],
      ['R', 'B', 'P', 'Y'],
      ['R', 'G', 'B', 'O'],
      ['R', 'G', 'B', 'Y'],
      ['R', 'G', 'B', 'P'],
      ['R', 'G', 'O', 'B'],
      ['R', 'G', 'O', 'Y'],
      ['R', 'G', 'O', 'P'],
      ['R', 'G', 'Y', 'B'],
      ['R', 'G', 'Y', 'O'],
      ['R', 'G', 'Y', 'P'],
      ['R', 'G', 'P', 'B'],
      ['R', 'G', 'P', 'O'],
      ['R', 'G', 'P', 'Y'],
      ['R', 'O', 'B', 'G'],
      ['R', 'O', 'B', 'Y'],
      ['R', 'O', 'B', 'P'],
      ['R', 'O', 'G', 'B'],
      ['R', 'O', 'G', 'Y'],
      ['R', 'O', 'G', 'P'],
      ['R', 'O', 'Y', 'B'],
      ['R', 'O', 'Y', 'G'],
      ['R', 'O', 'Y', 'P'],
      ['R', 'O', 'P', 'B'],
      ['R', 'O', 'P', 'G'],
      ['R', 'O', 'P', 'Y'],
      ['R', 'Y', 'B', 'G'],
      ['R', 'Y', 'B', 'O'],
      ['R', 'Y', 'B', 'P'],
      ['R', 'Y', 'G', 'B'],
      ['R', 'Y', 'G', 'O'],
      ['R', 'Y', 'G', 'P'],
      ['R', 'Y', 'O', 'B'],
      ['R', 'Y', 'O', 'G'],
      ['R', 'Y', 'O', 'P'],
      ['R', 'Y', 'P', 'B'],
      ['R', 'Y', 'P', 'G'],
      ['R', 'Y', 'P', 'O'],
      ['R', 'P', 'B', 'G'],
      ['R', 'P', 'B', 'O'],
      ['R', 'P', 'B', 'Y'],
      ['R', 'P', 'G', 'B'],
      ['R', 'P', 'G', 'O'],
      ['R', 'P', 'G', 'Y'],
      ['R', 'P', 'O', 'B'],
      ['R', 'P', 'O', 'G'],
      ['R', 'P', 'O', 'Y'],
      ['R', 'P', 'Y', 'B'],
      ['R', 'P', 'Y', 'G'],
      ['R', 'P', 'Y', 'O'],
      ['Y', 'B', 'G', 'O'],
      ['Y', 'B', 'G', 'R'],
      ['Y', 'B', 'G', 'P'],
      ['Y', 'B', 'O', 'G'],
      ['Y', 'B', 'O', 'R'],
      ['Y', 'B', 'O', 'P'],
      ['Y', 'B', 'R', 'G'],
      ['Y', 'B', 'R', 'O'],
      ['Y', 'B', 'R', 'P'],
      ['Y', 'B', 'P', 'G'],
      ['Y', 'B', 'P', 'O'],
      ['Y', 'B', 'P', 'R'],
      ['Y', 'G', 'B', 'O'],
      ['Y', 'G', 'B', 'R'],
      ['Y', 'G', 'B', 'P'],
      ['Y', 'G', 'O', 'B'],
      ['Y', 'G', 'O', 'R'],
      ['Y', 'G', 'O', 'P'],
      ['Y', 'G', 'R', 'B'],
      ['Y', 'G', 'R', 'O'],
      ['Y', 'G', 'R', 'P'],
      ['Y', 'G', 'P', 'B'],
      ['Y', 'G', 'P', 'O'],
      ['Y', 'G', 'P', 'R'],
      ['Y', 'O', 'B', 'G'],
      ['Y', 'O', 'B', 'R'],
      ['Y', 'O', 'B', 'P'],
      ['Y', 'O', 'G', 'B'],
      ['Y', 'O', 'G', 'R'],
      ['Y', 'O', 'G', 'P'],
      ['Y', 'O', 'R', 'B'],
      ['Y', 'O', 'R', 'G'],
      ['Y', 'O', 'R', 'P'],
      ['Y', 'O', 'P', 'B'],
      ['Y', 'O', 'P', 'G'],
      ['Y', 'O', 'P', 'R'],
      ['Y', 'R', 'B', 'G'],
      ['Y', 'R', 'B', 'O'],
      ['Y', 'R', 'B', 'P'],
      ['Y', 'R', 'G', 'B'],
      ['Y', 'R', 'G', 'O'],
      ['Y', 'R', 'G', 'P'],
      ['Y', 'R', 'O', 'B'],
      ['Y', 'R', 'O', 'G'],
      ['Y', 'R', 'O', 'P'],
      ['Y', 'R', 'P', 'B'],
      ['Y', 'R', 'P', 'G'],
      ['Y', 'R', 'P', 'O'],
      ['Y', 'P', 'B', 'G'],
      ['Y', 'P', 'B', 'O'],
      ['Y', 'P', 'B', 'R'],
      ['Y', 'P', 'G', 'B'],
      ['Y', 'P', 'G', 'O'],
      ['Y', 'P', 'G', 'R'],
      ['Y', 'P', 'O', 'B'],
      ['Y', 'P', 'O', 'G'],
      ['Y', 'P', 'O', 'R'],
      ['Y', 'P', 'R', 'B'],
      ['Y', 'P', 'R', 'G'],
      ['Y', 'P', 'R', 'O'],
      ['P', 'B', 'G', 'O'],
      ['P', 'B', 'G', 'R'],
      ['P', 'B', 'G', 'Y'],
      ['P', 'B', 'O', 'G'],
      ['P', 'B', 'O', 'R'],
      ['P', 'B', 'O', 'Y'],
      ['P', 'B', 'R', 'G'],
      ['P', 'B', 'R', 'O'],
      ['P', 'B', 'R', 'Y'],
      ['P', 'B', 'Y', 'G'],
      ['P', 'B', 'Y', 'O'],
      ['P', 'B', 'Y', 'R'],
      ['P', 'G', 'B', 'O'],
      ['P', 'G', 'B', 'R'],
      ['P', 'G', 'B', 'Y'],
      ['P', 'G', 'O', 'B'],
      ['P', 'G', 'O', 'R'],
      ['P', 'G', 'O', 'Y'],
      ['P', 'G', 'R', 'B'],
      ['P', 'G', 'R', 'O'],
      ['P', 'G', 'R', 'Y'],
      ['P', 'G', 'Y', 'B'],
      ['P', 'G', 'Y', 'O'],
      ['P', 'G', 'Y', 'R'],
      ['P', 'O', 'B', 'G'],
      ['P', 'O', 'B', 'R'],
      ['P', 'O', 'B', 'Y'],
      ['P', 'O', 'G', 'B'],
      ['P', 'O', 'G', 'R'],
      ['P', 'O', 'G', 'Y'],
      ['P', 'O', 'R', 'B'],
      ['P', 'O', 'R', 'G'],
      ['P', 'O', 'R', 'Y'],
      ['P', 'O', 'Y', 'B'],
      ['P', 'O', 'Y', 'G'],
      ['P', 'O', 'Y', 'R'],
      ['P', 'R', 'B', 'G'],
      ['P', 'R', 'B', 'O'],
      ['P', 'R', 'B', 'Y'],
      ['P', 'R', 'G', 'B'],
      ['P', 'R', 'G', 'O'],
      ['P', 'R', 'G', 'Y'],
      ['P', 'R', 'O', 'B'],
      ['P', 'R', 'O', 'G'],
      ['P', 'R', 'O', 'Y'],
      ['P', 'R', 'Y', 'B'],
      ['P', 'R', 'Y', 'G'],
      ['P', 'R', 'Y', 'O'],
      ['P', 'Y', 'B', 'G'],
      ['P', 'Y', 'B', 'O'],
      ['P', 'Y', 'B', 'R'],
      ['P', 'Y', 'G', 'B'],
      ['P', 'Y', 'G', 'O'],
      ['P', 'Y', 'G', 'R'],
      ['P', 'Y', 'O', 'B'],
      ['P', 'Y', 'O', 'G'],
      ['P', 'Y', 'O', 'R'],
      ['P', 'Y', 'R', 'B'],
      ['P', 'Y', 'R', 'G'],
      ['P', 'Y', 'R', 'O']] : List Code),
    ∃ k : Nat, k ≤ 6 ∧ (loopRun (honest s) 7 none S0 []).1 = RunResult.solved s k :=
  List.forall_mem_cons.mpr ⟨⟨3, by decide, fst_of_eq rs100⟩,
  List.forall_mem_cons.mpr ⟨⟨5, by decide, fst_of_eq rs101⟩,
  List.forall_mem_cons.mpr ⟨⟨4, by decide, fst_of_eq rs102⟩,
  List.forall_mem_cons.mpr ⟨⟨3, by decide, fst_of_eq rs103⟩,
  List.forall_mem_cons.mpr ⟨⟨2, by decide, fst_of_eq rs104⟩,
  List.forall_mem_cons.mpr ⟨⟨4, by decide, fst_of_eq rs105⟩,
  List.forall_mem_cons.mpr ⟨⟨4, by decide, fst_of_eq rs106⟩,
  List.forall_mem_cons.mpr ⟨⟨3, by decide, fst_of_eq rs107⟩,
  List.forall_mem_cons.mpr ⟨⟨4, by decide, fst_of_eq rs108⟩,
  List.forall_mem_cons.mpr ⟨⟨5, by decide, fst_of_eq rs109⟩,
  tl11⟩⟩⟩⟩⟩⟩⟩⟩⟩⟩


lemma tl9 : ∀ s ∈ ([['G', 'R', 'Y', 'B'],
      ['G', 'R', 'Y', 'O'],
      ['G', 'R', 'Y', 'P'],
      ['G', 'R', 'P', 'B'],
      ['G', 'R', 'P', 'O'],
      ['G', 'R', 'P', 'Y'],
      ['G', 'Y', 'B', 'O'],
      ['G', 'Y', 'B', 'R'],
      ['G', 'Y', 'B', 'P'],
      ['G', 'Y', 'O', 'B'],
      ['G', 'Y', 'O', 'R'],
      ['G', 'Y', 'O', 'P'],
      ['G', 'Y', 'R', 'B'],
      ['G', 'Y', 'R', 'O'],
      ['G', 'Y', 'R', 'P'],
      ['G', 'Y', 'P', 'B'],
      ['G', 'Y', 'P', 'O'],
      ['G', 'Y', 'P', 'R'],
      ['G', 'P', 'B', 'O'],
      ['G', 'P', 'B', 'R'],
      ['G', 'P', 'B', 'Y'],
      ['G', 'P', 'O', 'B'],
      ['G', 'P', 'O', 'R'],
      ['G', 'P', 'O', 'Y'],
      ['G', 'P', 'R', 'B'],
      ['G', 'P', 'R', 'O'],
      ['G', 'P', 'R', 'Y'],
      ['G', 'P', 'Y', 'B'],
      ['G', 'P', 'Y', 'O'],
      ['G', 'P', 'Y', 'R'],
      ['O', 'B', 'G', 'R'],
      ['O', 'B', 'G', 'Y'],
      ['O', 'B', 'G', 'P'],
      ['O', 'B', 'R', 'G'],
      ['O', 'B', 'R', 'Y'],
      ['O', 'B', 'R', 'P'],
      ['O', 'B', 'Y', 'G'],
      ['O', 'B', 'Y', 'R'],
      ['O', 'B', 'Y', 'P'],
      ['O', 'B', 'P', 'G'],
      ['O', 'B', 'P', 'R'],
      ['O', 'B', 'P', 'Y'],
      ['O', 'G', 'B', 'R'],
      ['O', 'G', 'B', 'Y'],
      ['O', 'G', 'B', 'P'],
      ['O', 'G', 'R', 'B'],
      ['O', 'G', 'R', 'Y'],
      ['O', 'G', 'R', 'P'],
      ['O', 'G', 'Y', 'B'],
      ['O', 'G', 'Y', 'R'],
      ['O', 'G', 'Y', 'P'],
      ['O', 'G', 'P', 'B'],
      ['O', 'G', 'P', 'R'],
      ['O', 'G', 'P', 'Y'],
      ['O', 'R', 'B', 'G'],
      ['O', 'R', 'B', 'Y'],
      ['O', 'R', 'B', 'P'],
      ['O', 'R', 'G', 'B'],
      ['O', 'R', 'G', 'Y'],
      ['O', 'R', 'G', 'P'],
      ['O', 'R', 'Y', 'B'],
      ['O', 'R', 'Y', 'G'],
      ['O', 'R', 'Y', 'P'],
      ['O', 'R', 'P', 'B'],
      ['O', 'R', 'P', 'G'],
      ['O', 'R', 'P', 'Y'],
      ['O', 'Y', 'B', 'G'],
      ['O', 'Y', 'B', 'R'],
      ['O', 'Y', 'B', 'P'],
      ['O', 'Y', 'G', 'B'],
      ['O', 'Y', 'G', 'R'],
      ['O', 'Y', 'G', 'P'],
      ['O', 'Y', 'R', 'B'],
      ['O', 'Y', 'R', 'G'],
      ['O', 'Y', 'R', 'P'],
      ['O', 'Y', 'P', 'B'],
      ['O', 'Y', 'P', 'G'],
      ['O', 'Y', 'P', 'R'],
      ['O', 'P', 'B', 'G'],
      ['O', 'P', 'B', 'R'],
      ['O', 'P', 'B', 'Y'],
      ['O', 'P', 'G', 'B'],
      ['O', 'P', 'G', 'R'],
      ['O', 'P', 'G', 'Y'],
      ['O', 'P', 'R', 'B'],
      ['O', 'P', 'R', 'G'],
      ['O', 'P', 'R', 'Y'],
      ['O', 'P', 'Y', 'B'],
      ['O', 'P', 'Y', 'G'],
      ['O', 'P', 'Y', 'R'],
      ['R', 'B', 'G', 'O'],
      ['R', 'B', 'G', 'Y'],
      ['R', 'B', 'G', 'P'],
      ['R', 'B', 'O', 'G'],
      ['R', 'B', 'O', 'Y'],
      ['R', 'B', 'O', 'P'],
      ['R', 'B', 'Y', 'G'],
      ['R', 'B', 'Y', 'O'],
      ['R', 'B', 'Y', 'P'],
      ['R', 'B', 'P', 'G'],
      ['R', 'B', 'P', 'O'],
      ['R', 'B', 'P', 'Y'],
      ['R', 'G', 'B', 'O'],
      ['R', 'G', 'B', 'Y'],
      ['R', 'G', 'B', 'P'],
      ['R', 'G', 'O', 'B'],
      ['R', 'G', 'O', 'Y'],
      ['R', 'G', 'O', 'P'],
      ['R', 'G', 'Y', 'B'],
      ['R', 'G', 'Y', 'O'],
      ['R', 'G', 'Y', 'P'],
      ['R', 'G', 'P', 'B'],
      ['R', 'G', 'P', 'O'],
      ['R', 'G', 'P', 'Y'],
      ['R', 'O', 'B', 'G'],
      ['R', 'O', 'B', 'Y'],
      ['R', 'O', 'B', 'P'],
      ['R', 'O', 'G', 'B'],
      ['R', 'O', 'G', 'Y'],
      ['R', 'O', 'G', 'P'],
      ['R', 'O', 'Y', 'B'],
      ['R', 'O', 'Y', 'G'],
      ['R', 'O', 'Y', 'P'],
      ['R', 'O', 'P', 'B'],
      ['R', 'O', 'P', 'G'],
      ['R', 'O', 'P', 'Y'],
      ['R', 'Y', 'B', 'G'],
      ['R', 'Y', 'B', 'O'],
      ['R', 'Y', 'B', 'P'],
      ['R', 'Y', 'G', 'B'],
      ['R', 'Y', 'G', 'O'],
      ['R', 'Y', 'G', 'P'],
      ['R', 'Y', 'O', 'B'],
      ['R', 'Y', 'O', 'G'],
      ['R', 'Y', 'O', 'P'],
      ['R', 'Y', 'P', 'B'],
      ['R', 'Y', 'P', 'G'],
      ['R', 'Y', 'P', 'O'],
      ['R', 'P', 'B', 'G'],
      ['R', 'P', 'B', 'O'],
      ['R', 'P', 'B', 'Y'],
      ['R', 'P', 'G', 'B'],
      ['R', 'P', 'G', 'O'],
      ['R', 'P', 'G', 'Y'],
      ['R', 'P', 'O', 'B'],
      ['R', 'P', 'O', 'G'],
      ['R', 'P', 'O', 'Y'],
      ['R', 'P', 'Y', 'B'],
      ['R', 'P', 'Y', 'G'],
      ['R', 'P', 'Y', 'O'],
      ['Y', 'B', 'G', 'O'],
      ['Y', 'B', 'G', 'R'],
      ['Y', 'B', 'G', 'P'],
      ['Y', 'B', 'O', 'G'],
      ['Y', 'B', 'O', 'R'],
      ['Y', 'B', 'O', 'P'],
      ['Y', 'B', 'R', 'G'],
      ['Y', 'B', 'R', 'O'],
      ['Y', 'B', 'R', 'P'],
      ['Y', 'B', 'P', 'G'],
      ['Y', 'B', 'P', 'O'],
      ['Y', 'B', 'P', 'R'],
      ['Y', 'G', 'B', 'O'],
      ['Y', 'G', 'B', 'R'],
      ['Y', 'G', 'B', 'P'],
      ['Y', 'G', 'O', 'B'],
      ['Y', 'G', 'O', 'R'],
      ['Y', 'G', 'O', 'P'],
      ['Y', 'G', 'R', 'B'],
      ['Y', 'G', 'R', 'O'],
      ['Y', 'G', 'R', 'P'],
      ['Y', 'G', 'P', 'B'],
      ['Y', 'G', 'P', 'O'],
      ['Y', 'G', 'P', 'R'],
      ['Y', 'O', 'B', 'G'],
      ['Y', 'O', 'B', 'R'],
      ['Y', 'O', 'B', 'P'],
      ['Y', 'O', 'G', 'B'],
      ['Y', 'O', 'G', 'R'],
      ['Y', 'O', 'G', 'P'],
      ['Y', 'O', 'R', 'B'],
      ['Y', 'O', 'R', 'G'],
      ['Y', 'O', 'R', 'P'],
      ['Y', 'O', 'P', 'B'],
      ['Y', 'O', 'P', 'G'],
      ['Y', 'O', 'P', 'R'],
      ['Y', 'R', 'B', 'G'],
      ['Y', 'R', 'B', 'O'],
      ['Y', 'R', 'B', 'P'],
      ['Y', 'R', 'G', 'B'],
      ['Y', 'R', 'G', 'O'],
      ['Y', 'R', 'G', 'P'],
      ['Y', 'R', 'O', 'B'],
      ['Y', 'R', 'O', 'G'],
      ['Y', 'R', 'O', 'P'],
      ['Y', 'R', 'P', 'B'],
      ['Y', 'R', 'P', 'G'],
      ['Y', 'R', 'P', 'O'],
      ['Y', 'P', 'B', 'G'],
      ['Y', 'P', 'B', 'O'],
      ['Y', 'P', 'B', 'R'],
      ['Y', 'P', 'G', 'B'],
      ['Y', 'P', 'G', 'O'],
      ['Y', 'P', 'G', 'R'],
      ['Y', 'P', 'O', 'B'],
      ['Y', 'P', 'O', 'G'],
      ['Y', 'P', 'O', 'R'],
      ['Y', 'P', 'R', 'B'],
      ['Y', 'P', 'R', 'G'],
      ['Y', 'P', 'R', 'O'],
      ['P', 'B', 'G', 'O'],
      ['P', 'B', 'G', 'R'],
      ['P', 'B', 'G', 'Y'],
      ['P', 'B', 'O', 'G'],
      ['P', 'B', 'O', 'R'],
      ['P', 'B', 'O', 'Y'],
      ['P', 'B', 'R', 'G'],
      ['P', 'B', 'R', 'O'],
      ['P', 'B', 'R', 'Y'],
      ['P', 'B', 'Y', 'G'],
      ['P', 'B', 'Y', 'O'],
      ['P', 'B', 'Y', 'R'],
      ['P', 'G', 'B', 'O'],
      ['P', 'G', 'B', 'R'],
      ['P', 'G', 'B', 'Y'],
      ['P', 'G', 'O', 'B'],
      ['P', 'G', 'O', 'R'],
      ['P', 'G', 'O', 'Y'],
      ['P', 'G', 'R', 'B'],
      ['P', 'G', 'R', 'O'],
      ['P', 'G', 'R', 'Y'],
      ['P', 'G', 'Y', 'B'],
      ['P', 'G', 'Y', 'O'],
      ['P', 'G', 'Y', 'R'],
      ['P', 'O', 'B', 'G'],
      ['P', 'O', 'B', 'R'],
      ['P', 'O', 'B', 'Y'],
      ['P', 'O', 'G', 'B'],
      ['P', 'O', 'G', 'R'],
      ['P', 'O', 'G', 'Y'],
      ['P', 'O', 'R', 'B'],
      ['P', 'O', 'R', 'G'],
      ['P', 'O', 'R', 'Y'],
      ['P', 'O', 'Y', 'B'],
      ['P', 'O', 'Y', 'G'],
      ['P', 'O', 'Y', 'R'],
      ['P', 'R', 'B', 'G'],
      ['P', 'R', 'B', 'O'],
      ['P', 'R', 'B', 'Y'],
      ['P', 'R', 'G', 'B'],
      ['P', 'R', 'G', 'O'],
      ['P', 'R', 'G', 'Y'],
      ['P', 'R', 'O', 'B'],
      ['P', 'R', 'O', 'G'],
      ['P', 'R', 'O', 'Y'],
      ['P', 'R', 'Y', 'B'],
      ['P', 'R', 'Y', 'G'],
      ['P', 'R', 'Y', 'O'],
      ['P', 'Y', 'B', 'G'],
      ['P', 'Y', 'B', 'O'],
      ['P', 'Y', 'B', 'R'],
      ['P', 'Y', 'G', 'B'],
      ['P', 'Y', 'G', 'O'],
      ['P', 'Y', 'G', 'R'],
      ['P', 'Y', 'O', 'B'],
      ['P', 'Y', 'O', 'G'],
      ['P', 'Y', 'O', 'R'],
      ['P', 'Y', 'R', 'B'],
      ['P', 'Y', 'R', 'G'],
      ['P', 'Y', 'R', 'O']] : List Code),
    ∃ k : Nat, k ≤ 6 ∧ (loopRun (honest s) 7 none S0 []).1 = RunResult.solved s k :=
  List.forall_mem_cons.mpr ⟨⟨4, by decide, fst_of_eq rs90⟩,
  List.forall_mem_cons.mpr ⟨⟨3, by decide, fst_of_eq rs91⟩,
  List.forall_mem_cons.mpr ⟨⟨3, by decide, fst_of_eq rs92⟩,
  List.forall_mem_cons.mpr ⟨⟨5, by decide, fst_of_eq rs93⟩,
  List.forall_mem_cons.mpr ⟨⟨4, by decide, fst_of_eq rs94⟩,
  List.forall_mem_cons.mpr ⟨⟨3, by decide, fst_of_eq rs95⟩,
  List.forall_mem_cons.mpr ⟨⟨4, by decide, fst_of_eq rs96⟩,
  List.forall_mem_cons.mpr ⟨⟨4, by decide, fst_of_eq rs97⟩,
  List.forall_mem_cons.mpr ⟨⟨3, by decide, fst_of_eq rs98⟩,
  List.forall_mem_cons.mpr ⟨⟨4, by decide, fst_of_eq rs99⟩,
  tl10⟩⟩⟩⟩⟩⟩⟩⟩⟩⟩


lemma tl8 : ∀ s ∈ ([['G', 'O', 'Y', 'P'],
      ['G', 'O', 'P', 'B'],
      ['G', 'O', 'P', 'R'],
      ['G', 'O', 'P', 'Y'],
      ['G', 'R', 'B', 'O'],
      ['G', 'R', 'B', 'Y'],
      ['G', 'R', 'B', 'P'],
      ['G', 'R', 'O', 'B'],
      ['G', 'R', 'O', 'Y'],
      ['G', 'R', 'O', 'P'],
      ['G', 'R', 'Y', 'B'],
      ['G', 'R', 'Y', 'O'],
      ['G', 'R', 'Y', 'P'],
      ['G', 'R', 'P', 'B'],
      ['G', 'R', 'P', 'O'],
      ['G', 'R', 'P', 'Y'],
      ['G', 'Y', 'B', 'O'],
      ['G', 'Y', 'B', 'R'],
      ['G', 'Y', 'B', 'P'],
      ['G', 'Y', 'O', 'B'],
      ['G', 'Y', 'O', 'R'],
      ['G', 'Y', 'O', 'P'],
      ['G', 'Y', 'R', 'B'],
      ['G', 'Y', 'R', 'O'],
      ['G', 'Y', 'R', 'P'],
      ['G', 'Y', 'P', 'B'],
      ['G', 'Y', 'P', 'O'],
      ['G', 'Y', 'P', 'R'],
      ['G', 'P', 'B', 'O'],
      ['G', 'P', 'B', 'R'],
      ['G', 'P', 'B', 'Y'],
      ['G', 'P', 'O', 'B'],
      ['G', 'P', 'O', 'R'],
      ['G', 'P', 'O', 'Y'],
      ['G', 'P', 'R', 'B'],
      ['G', 'P', 'R', 'O'],
      ['G', 'P', 'R', 'Y'],
      ['G', 'P', 'Y', 'B'],
      ['G', 'P', 'Y', 'O'],
      ['G', 'P', 'Y', 'R'],
      ['O', 'B', 'G', 'R'],
      ['O', 'B', 'G', 'Y'],
      ['O', 'B', 'G', 'P'],
      ['O', 'B', 'R', 'G'],
      ['O', 'B', 'R', 'Y'],
      ['O', 'B', 'R', 'P'],
      ['O', 'B', 'Y', 'G'],
      ['O', 'B', 'Y', 'R'],
      ['O', 'B', 'Y', 'P'],
      ['O', 'B', 'P', 'G'],
      ['O', 'B', 'P', 'R'],
      ['O', 'B', 'P', 'Y'],
      ['O', 'G', 'B', 'R'],
      ['O', 'G', 'B', 'Y'],
      ['O', 'G', 'B', 'P'],
      ['O', 'G', 'R', 'B'],
      ['O', 'G', 'R', 'Y'],
      ['O', 'G', 'R', 'P'],
      ['O', 'G', 'Y', 'B'],
      ['O', 'G', 'Y', 'R'],
      ['O', 'G', 'Y', 'P'],
      ['O', 'G', 'P', 'B'],
      ['O', 'G', 'P', 'R'],
      ['O', 'G', 'P', 'Y'],
      ['O', 'R', 'B', 'G'],
      ['O', 'R', 'B', 'Y'],
      ['O', 'R', 'B', 'P'],
      ['O', 'R', 'G', 'B'],
      ['O', 'R', 'G', 'Y'],
      ['O', 'R', 'G', 'P'],
      ['O', 'R', 'Y', 'B'],
      ['O', 'R', 'Y', 'G'],
      ['O', 'R', 'Y', 'P'],
      ['O', 'R', 'P', 'B'],
      ['O', 'R', 'P', 'G'],
      ['O', 'R', 'P', 'Y'],
      ['O', 'Y', 'B', 'G'],
      ['O', 'Y', 'B', 'R'],
      ['O', 'Y', 'B', 'P'],
      ['O', 'Y', 'G', 'B'],
      ['O', 'Y', 'G', 'R'],
      ['O', 'Y', 'G', 'P'],
      ['O', 'Y', 'R', 'B'],
      ['O', 'Y', 'R', 'G'],
      ['O', 'Y', 'R', 'P'],
      ['O', 'Y', 'P', 'B'],
      ['O', 'Y', 'P', 'G'],
      ['O', 'Y', 'P', 'R'],
      ['O', 'P', 'B', 'G'],
      ['O', 'P', 'B', 'R'],
      ['O', 'P', 'B', 'Y'],
      ['O', 'P', 'G', 'B'],
      ['O', 'P', 'G', 'R'],
      ['O', 'P', 'G', 'Y'],
      ['O', 'P', 'R', 'B'],
      ['O', 'P', 'R', 'G'],
      ['O', 'P', 'R', 'Y'],
      ['O', 'P', 'Y', 'B'],
      ['O', 'P', 'Y', 'G'],
      ['O', 'P', 'Y', 'R'],
      ['R', 'B', 'G', 'O'],
      ['R', 'B', 'G', 'Y'],
      ['R', 'B', 'G', 'P'],
      ['R', 'B', 'O', 'G'],
      ['R', 'B', 'O', 'Y'],
      ['R', 'B', 'O', 'P'],
      ['R', 'B', 'Y', 'G'],
      ['R', 'B', 'Y', 'O'],
      ['R', 'B', 'Y', 'P'],
      ['R', 'B', 'P', 'G'],
      ['R', 'B', 'P', 'O'],
      ['R', 'B', 'P', 'Y'],
      ['R', 'G', 'B', 'O'],
      ['R', 'G', 'B', 'Y'],
      ['R', 'G', 'B', 'P'],
      ['R', 'G', 'O', 'B'],
      ['R', 'G', 'O', 'Y'],
      ['R', 'G', 'O', 'P'],
      ['R', 'G', 'Y', 'B'],
      ['R', 'G', 'Y', 'O'],
      ['R', 'G', 'Y', 'P'],
      ['R', 'G', 'P', 'B'],
      ['R', 'G', 'P', 'O'],
      ['R', 'G', 'P', 'Y'],
      ['R', 'O', 'B', 'G'],
      ['R', 'O', 'B', 'Y'],
      ['R', 'O', 'B', 'P'],
      ['R', 'O', 'G', 'B'],
      ['R', 'O', 'G', 'Y'],
      ['R', 'O', 'G', 'P'],
      ['R', 'O', 'Y', 'B'],
      ['R', 'O', 'Y', 'G'],
      ['R', 'O', 'Y', 'P'],
      ['R', 'O', 'P', 'B'],
      ['R', 'O', 'P', 'G'],
      ['R', 'O', 'P', 'Y'],
      ['R', 'Y', 'B', 'G'],
      ['R', 'Y', 'B', 'O'],
      ['R', 'Y', 'B', 'P'],
      ['R', 'Y', 'G', 'B'],
      ['R', 'Y', 'G', 'O'],
      ['R', 'Y', 'G', 'P'],
      ['R', 'Y', 'O', 'B'],
      ['R', 'Y', 'O', 'G'],
      ['R', 'Y', 'O', 'P'],
      ['R', 'Y', 'P', 'B'],
      ['R', 'Y', 'P', 'G'],
      ['R', 'Y', 'P', 'O'],
      ['R', 'P', 'B', 'G'],
      ['R', 'P', 'B', 'O'],
      ['R', 'P', 'B', 'Y'],
      ['R', 'P', 'G', 'B'],
      ['R', 'P', 'G', 'O'],
      ['R', 'P', 'G', 'Y'],
      ['R', 'P', 'O', 'B'],
      ['R', 'P', 'O', 'G'],
      ['R', 'P', 'O', 'Y'],
      ['R', 'P', 'Y', 'B'],
      ['R', 'P', 'Y', 'G'],
      ['R', 'P', 'Y', 'O'],
      ['Y', 'B', 'G', 'O'],
      ['Y', 'B', 'G', 'R'],
      ['Y', 'B', 'G', 'P'],
      ['Y', 'B', 'O', 'G'],
      ['Y', 'B', 'O', 'R'],
      ['Y', 'B', 'O', 'P'],
      ['Y', 'B', 'R', 'G'],
      ['Y', 'B', 'R', 'O'],
      ['Y', 'B', 'R', 'P'],
      ['Y', 'B', 'P', 'G'],
      ['Y', 'B', 'P', 'O'],
      ['Y', 'B', 'P', 'R'],
      ['Y', 'G', 'B', 'O'],
      ['Y', 'G', 'B', 'R'],
      ['Y', 'G', 'B', 'P'],
      ['Y', 'G', 'O', 'B'],
      ['Y', 'G', 'O', 'R'],
      ['Y', 'G', 'O', 'P'],
      ['Y', 'G', 'R', 'B'],
      ['Y', 'G', 'R', 'O'],
      ['Y', 'G', 'R', 'P'],
      ['Y', 'G', 'P', 'B'],
      ['Y', 'G', 'P', 'O'],
      ['Y', 'G', 'P', 'R'],
      ['Y', 'O', 'B', 'G'],
      ['Y', 'O', 'B', 'R'],
      ['Y', 'O', 'B', 'P'],
      ['Y', 'O', 'G', 'B'],
      ['Y', 'O', 'G', 'R'],
      ['Y', 'O', 'G', 'P'],
      ['Y', 'O', 'R', 'B'],
      ['Y', 'O', 'R', 'G'],
      ['Y', 'O', 'R', 'P'],
      ['Y', 'O', 'P', 'B'],
      ['Y', 'O', 'P', 'G'],
      ['Y', 'O', 'P', 'R'],
      ['Y', 'R', 'B', 'G'],
      ['Y', 'R', 'B', 'O'],
      ['Y', 'R', 'B', 'P'],
      ['Y', 'R', 'G', 'B'],
      ['Y', 'R', 'G', 'O'],
      ['Y', 'R', 'G', 'P'],
      ['Y', 'R', 'O', 'B'],
      ['Y', 'R', 'O', 'G'],
      ['Y', 'R', 'O', 'P'],
      ['Y', 'R', 'P', 'B'],
      ['Y', 'R', 'P', 'G'],
      ['Y', 'R', 'P', 'O'],
      ['Y', 'P', 'B', 'G'],
      ['Y', 'P', 'B', 'O'],
      ['Y', 'P', 'B', 'R'],
      ['Y', 'P', 'G', 'B'],
      ['Y', 'P', 'G', 'O'],
      ['Y', 'P', 'G', 'R'],
      ['Y', 'P', 'O', 'B'],
      ['Y', 'P', 'O', 'G'],
      ['Y', 'P', 'O', 'R'],
      ['Y', 'P', 'R', 'B'],
      ['Y', 'P', 'R', 'G'],
      ['Y', 'P', 'R', 'O'],
      ['P', 'B', 'G', 'O'],
      ['P', 'B', 'G', 'R'],
      ['P', 'B', 'G', 'Y'],
      ['P', 'B', 'O', 'G'],
      ['P', 'B', 'O', 'R'],
      ['P', 'B', 'O', 'Y'],
      ['P', 'B', 'R', 'G'],
      ['P', 'B', 'R', 'O'],
      ['P', 'B', 'R', 'Y'],
      ['P', 'B', 'Y', 'G'],
      ['P', 'B', 'Y', 'O'],
      ['P', 'B', 'Y', 'R'],
      ['P', 'G', 'B', 'O'],
      ['P', 'G', 'B', 'R'],
      ['P', 'G', 'B', 'Y'],
      ['P', 'G', 'O', 'B'],
      ['P', 'G', 'O', 'R'],
      ['P', 'G', 'O', 'Y'],
      ['P', 'G', 'R', 'B'],
      ['P', 'G', 'R', 'O'],
      ['P', 'G', 'R', 'Y'],
      ['P', 'G', 'Y', 'B'],
      ['P', 'G', 'Y', 'O'],
      ['P', 'G', 'Y', 'R'],
      ['P', 'O', 'B', 'G'],
      ['P', 'O', 'B', 'R'],
      ['P', 'O', 'B', 'Y'],
      ['P', 'O', 'G', 'B'],
      ['P', 'O', 'G', 'R'],
      ['P', 'O', 'G', 'Y'],
      ['P', 'O', 'R', 'B'],
      ['P', 'O', 'R', 'G'],
      ['P', 'O', 'R', 'Y'],
      ['P', 'O', 'Y', 'B'],
      ['P', 'O', 'Y', 'G'],
      ['P', 'O', 'Y', 'R'],
      ['P', 'R', 'B', 'G'],
      ['P', 'R', 'B', 'O'],
      ['P', 'R', 'B', 'Y'],
      ['P', 'R', 'G', 'B'],
      ['P', 'R', 'G', 'O'],
      ['P', 'R', 'G', 'Y'],
      ['P', 'R', 'O', 'B'],
      ['P', 'R', 'O', 'G'],
      ['P', 'R', 'O', 'Y'],
      ['P', 'R', 'Y', 'B'],
      ['P', 'R', 'Y', 'G'],
      ['P', 'R', 'Y', 'O'],
      ['P', 'Y', 'B', 'G'],
      ['P', 'Y', 'B', 'O'],
      ['P', 'Y', 'B', 'R'],
      ['P', 'Y', 'G', 'B'],
      ['P', 'Y', 'G', 'O'],
      ['P', 'Y', 'G', 'R'],
      ['P', 'Y', 'O', 'B'],
      ['P', 'Y', 'O', 'G'],
      ['P', 'Y', 'O', 'R'],
      ['P', 'Y', 'R', 'B'],
      ['P', 'Y', 'R', 'G'],
      ['P', 'Y', 'R', 'O']] : List Code),
    ∃ k : Nat, k ≤ 6 ∧ (loopRun (honest s) 7 none S0 []).1 = RunResult.solved s k :=
  List.forall_mem_cons.mpr ⟨⟨3, by decide, fst_of_eq rs80⟩,
  List.forall_mem_cons.mpr ⟨⟨4, by decide, fst_of_eq rs81⟩,
  List.forall_mem_cons.mpr ⟨⟨4, by decide, fst_of_eq rs82⟩,
  List.forall_mem_cons.mpr ⟨⟨4, by decide, fst_of_eq rs83⟩,
  List.forall_mem_cons.mpr ⟨⟨4, by decide, fst_of_eq rs84⟩,
  List.forall_mem_cons.mpr ⟨⟨4, by decide, fst_of_eq rs85⟩,
  List.forall_mem_cons.mpr ⟨⟨4, by decide, fst_of_eq rs86⟩,
  List.forall_mem_cons.mpr ⟨⟨3, by decide, fst_of_eq rs87⟩,
  List.forall_mem_cons.mpr ⟨⟨3, by decide, fst_of_eq rs88⟩,
  List.forall_mem_cons.mpr ⟨⟨4, by decide, fst_of_eq rs89⟩,
  tl9⟩⟩⟩⟩⟩⟩⟩⟩⟩⟩


lemma tl7 : ∀ s ∈ ([['G', 'B', 'P', 'R'],
      ['G', 'B', 'P', 'Y'],
      ['G', 'O', 'B', 'R'],
      ['G', 'O', 'B', 'Y'],
      ['G', 'O', 'B', 'P'],
      ['G', 'O', 'R', 'B'],
      ['G', 'O', 'R', 'Y'],
      ['G', 'O', 'R', 'P'],
      ['G', 'O', 'Y', 'B'],
      ['G', 'O', 'Y', 'R'],
      ['G', 'O', 'Y', 'P'],
      ['G', 'O', 'P', 'B'],
      ['G', 'O', 'P', 'R'],
      ['G', 'O', 'P', 'Y'],
      ['G', 'R', 'B', 'O'],
      ['G', 'R', 'B', 'Y'],
      ['G', 'R', 'B', 'P'],
      ['G', 'R', 'O', 'B'],
      ['G', 'R', 'O', 'Y'],
      ['G', 'R', 'O', 'P'],
      ['G', 'R', 'Y', 'B'],
      ['G', 'R', 'Y', 'O'],
      ['G', 'R', 'Y', 'P'],
      ['G', 'R', 'P', 'B'],
      ['G', 'R', 'P', 'O'],
      ['G', 'R', 'P', 'Y'],
      ['G', 'Y', 'B', 'O'],
      ['G', 'Y', 'B', 'R'],
      ['G', 'Y', 'B', 'P'],
      ['G', 'Y', 'O', 'B'],
      ['G', 'Y', 'O', 'R'],
      ['G', 'Y', 'O', 'P'],
      ['G', 'Y', 'R', 'B'],
      ['G', 'Y', 'R', 'O'],
      ['G', 'Y', 'R', 'P'],
      ['G', 'Y', 'P', 'B'],
      ['G', 'Y', 'P', 'O'],
      ['G', 'Y', 'P', 'R'],
      ['G', 'P', 'B', 'O'],
      ['G', 'P', 'B', 'R'],
      ['G', 'P', 'B', 'Y'],
      ['G', 'P', 'O', 'B'],
      ['G', 'P', 'O', 'R'],
      ['G', 'P', 'O', 'Y'],
      ['G', 'P', 'R', 'B'],
      ['G', 'P', 'R', 'O'],
      ['G', 'P', 'R', 'Y'],
      ['G', 'P', 'Y', 'B'],
      ['G', 'P', 'Y', 'O'],
      ['G', 'P', 'Y', 'R'],
      ['O', 'B', 'G', 'R'],
      ['O', 'B', 'G', 'Y'],
      ['O', 'B', 'G', 'P'],
      ['O', 'B', 'R', 'G'],
      ['O', 'B', 'R', 'Y'],
      ['O', 'B', 'R', 'P'],
      ['O', 'B', 'Y', 'G'],
      ['O', 'B', 'Y', 'R'],
      ['O', 'B', 'Y', 'P'],
      ['O', 'B', 'P', 'G'],
      ['O', 'B', 'P', 'R'],
      ['O', 'B', 'P', 'Y'],
      ['O', 'G', 'B', 'R'],
      ['O', 'G', 'B', 'Y'],
      ['O', 'G', 'B', 'P'],
      ['O', 'G', 'R', 'B'],
      ['O', 'G', 'R', 'Y'],
      ['O', 'G', 'R', 'P'],
      ['O', 'G', 'Y', 'B'],
      ['O', 'G', 'Y', 'R'],
      ['O', 'G', 'Y', 'P'],
      ['O', 'G', 'P', 'B'],
      ['O', 'G', 'P', 'R'],
      ['O', 'G', 'P', 'Y'],
      ['O', 'R', 'B', 'G'],
      ['O', 'R', 'B', 'Y'],
      ['O', 'R', 'B', 'P'],
      ['O', 'R', 'G', 'B'],
      ['O', 'R', 'G', 'Y'],
      ['O', 'R', 'G', 'P'],
      ['O', 'R', 'Y', 'B'],
      ['O', 'R', 'Y', 'G'],
      ['O', 'R', 'Y', 'P'],
      ['O', 'R', 'P', 'B'],
      ['O', 'R', 'P', 'G'],
      ['O', 'R', 'P', 'Y'],
      ['O', 'Y', 'B', 'G'],
      ['O', 'Y', 'B', 'R'],
      ['O', 'Y', 'B', 'P'],
      ['O', 'Y', 'G', 'B'],
      ['O', 'Y', 'G', 'R'],
      ['O', 'Y', 'G', 'P'],
      ['O', 'Y', 'R', 'B'],
      ['O', 'Y', 'R', 'G'],
      ['O', 'Y', 'R', 'P'],
      ['O', 'Y', 'P', 'B'],
      ['O', 'Y', 'P', 'G'],
      ['O', 'Y', 'P', 'R'],
      ['O', 'P', 'B', 'G'],
      ['O', 'P', 'B', 'R'],
      ['O', 'P', 'B', 'Y'],
      ['O', 'P', 'G', 'B'],
      ['O', 'P', 'G', 'R'],
      ['O', 'P', 'G', 'Y'],
      ['O', 'P', 'R', 'B'],
      ['O', 'P', 'R', 'G'],
      ['O', 'P', 'R', 'Y'],
      ['O', 'P', 'Y', 'B'],
      ['O', 'P', 'Y', 'G'],
      ['O', 'P', 'Y', 'R'],
      ['R', 'B', 'G', 'O'],
      ['R', 'B', 'G', 'Y'],
      ['R', 'B', 'G', 'P'],
      ['R', 'B', 'O', 'G'],
      ['R', 'B', 'O', 'Y'],
      ['R', 'B', 'O', 'P'],
      ['R', 'B', 'Y', 'G'],
      ['R', 'B', 'Y', 'O'],
      ['R', 'B', 'Y', 'P'],
      ['R', 'B', 'P', 'G'],
      ['R', 'B', 'P', 'O'],
      ['R', 'B', 'P', 'Y'],
      ['R', 'G', 'B', 'O'],
      ['R', 'G', 'B', 'Y'],
      ['R', 'G', 'B', 'P'],
      ['R', 'G', 'O', 'B'],
      ['R', 'G', 'O', 'Y'],
      ['R', 'G', 'O', 'P'],
      ['R', 'G', 'Y', 'B'],
      ['R', 'G', 'Y', 'O'],
      ['R', 'G', 'Y', 'P'],
      ['R', 'G', 'P', 'B'],
      ['R', 'G', 'P', 'O'],
      ['R', 'G', 'P', 'Y'],
      ['R', 'O', 'B', 'G'],
      ['R', 'O', 'B', 'Y'],
      ['R', 'O', 'B', 'P'],
      ['R', 'O', 'G', 'B'],
      ['R', 'O', 'G', 'Y'],
      ['R', 'O', 'G', 'P'],
      ['R', 'O', 'Y', 'B'],
      ['R', 'O', 'Y', 'G'],
      ['R', 'O', 'Y', 'P'],
      ['R', 'O', 'P', 'B'],
      ['R', 'O', 'P', 'G'],
      ['R', 'O', 'P', 'Y'],
      ['R', 'Y', 'B', 'G'],
      ['R', 'Y', 'B', 'O'],
      ['R', 'Y', 'B', 'P'],
      ['R', 'Y', 'G', 'B'],
      ['R', 'Y', 'G', 'O'],
      ['R', 'Y', 'G', 'P'],
      ['R', 'Y', 'O', 'B'],
      ['R', 'Y', 'O', 'G'],
      ['R', 'Y', 'O', 'P'],
      ['R', 'Y', 'P', 'B'],
      ['R', 'Y', 'P', 'G'],
      ['R', 'Y', 'P', 'O'],
      ['R', 'P', 'B', 'G'],
      ['R', 'P', 'B', 'O'],
      ['R', 'P', 'B', 'Y'],
      ['R', 'P', 'G', 'B'],
      ['R', 'P', 'G', 'O'],
      ['R', 'P', 'G', 'Y'],
      ['R', 'P', 'O', 'B'],
      ['R', 'P', 'O', 'G'],
      ['R', 'P', 'O', 'Y'],
      ['R', 'P', 'Y', 'B'],
      ['R', 'P', 'Y', 'G'],
      ['R', 'P', 'Y', 'O'],
      ['Y', 'B', 'G', 'O'],
      ['Y', 'B', 'G', 'R'],
      ['Y', 'B', 'G', 'P'],
      ['Y', 'B', 'O', 'G'],
      ['Y', 'B', 'O', 'R'],
      ['Y', 'B', 'O', 'P'],
      ['Y', 'B', 'R', 'G'],
      ['Y', 'B', 'R', 'O'],
      ['Y', 'B', 'R', 'P'],
      ['Y', 'B', 'P', 'G'],
      ['Y', 'B', 'P', 'O'],
      ['Y', 'B', 'P', 'R'],
      ['Y', 'G', 'B', 'O'],
      ['Y', 'G', 'B', 'R'],
      ['Y', 'G', 'B', 'P'],
      ['Y', 'G', 'O', 'B'],
      ['Y', 'G', 'O', 'R'],
      ['Y', 'G', 'O', 'P'],
      ['Y', 'G', 'R', 'B'],
      ['Y', 'G', 'R', 'O'],
      ['Y', 'G', 'R', 'P'],
      ['Y', 'G', 'P', 'B'],
      ['Y', 'G', 'P', 'O'],
      ['Y', 'G', 'P', 'R'],
      ['Y', 'O', 'B', 'G'],
      ['Y', 'O', 'B', 'R'],
      ['Y', 'O', 'B', 'P'],
      ['Y', 'O', 'G', 'B'],
      ['Y', 'O', 'G', 'R'],
      ['Y', 'O', 'G', 'P'],
      ['Y', 'O', 'R', 'B'],
      ['Y', 'O', 'R', 'G'],
      ['Y', 'O', 'R', 'P'],
      ['Y', 'O', 'P', 'B'],
      ['Y', 'O', 'P', 'G'],
      ['Y', 'O', 'P', 'R'],
      ['Y', 'R', 'B', 'G'],
      ['Y', 'R', 'B', 'O'],
      ['Y', 'R', 'B', 'P'],
      ['Y', 'R', 'G', 'B'],
      ['Y', 'R', 'G', 'O'],
      ['Y', 'R', 'G', 'P'],
      ['Y', 'R', 'O', 'B'],
      ['Y', 'R', 'O', 'G'],
      ['Y', 'R', 'O', 'P'],
      ['Y', 'R', 'P', 'B'],
      ['Y', 'R', 'P', 'G'],
      ['Y', 'R', 'P', 'O'],
      ['Y', 'P', 'B', 'G'],
      ['Y', 'P', 'B', 'O'],
      ['Y', 'P', 'B', 'R'],
      ['Y', 'P', 'G', 'B'],
      ['Y', 'P', 'G', 'O'],
      ['Y', 'P', 'G', 'R'],
      ['Y', 'P', 'O', 'B'],
      ['Y', 'P', 'O', 'G'],
      ['Y', 'P', 'O', 'R'],
      ['Y', 'P', 'R', 'B'],
      ['Y', 'P', 'R', 'G'],
      ['Y', 'P', 'R', 'O'],
      ['P', 'B', 'G', 'O'],
      ['P', 'B', 'G', 'R'],
      ['P', 'B', 'G', 'Y'],
      ['P', 'B', 'O', 'G'],
      ['P', 'B', 'O', 'R'],
      ['P', 'B', 'O', 'Y'],
      ['P', 'B', 'R', 'G'],
      ['P', 'B', 'R', 'O'],
      ['P', 'B', 'R', 'Y'],
      ['P', 'B', 'Y', 'G'],
      ['P', 'B', 'Y', 'O'],
      ['P', 'B', 'Y', 'R'],
      ['P', 'G', 'B', 'O'],
      ['P', 'G', 'B', 'R'],
      ['P', 'G', 'B', 'Y'],
      ['P', 'G', 'O', 'B'],
      ['P', 'G', 'O', 'R'],
      ['P', 'G', 'O', 'Y'],
      ['P', 'G', 'R', 'B'],
      ['P', 'G', 'R', 'O'],
      ['P', 'G', 'R', 'Y'],
      ['P', 'G', 'Y', 'B'],
      ['P', 'G', 'Y', 'O'],
      ['P', 'G', 'Y', 'R'],
      ['P', 'O', 'B', 'G'],
      ['P', 'O', 'B', 'R'],
      ['P', 'O', 'B', 'Y'],
      ['P', 'O', 'G', 'B'],
      ['P', 'O', 'G', 'R'],
      ['P', 'O', 'G', 'Y'],
      ['P', 'O', 'R', 'B'],
      ['P', 'O', 'R', 'G'],
      ['P', 'O', 'R', 'Y'],
      ['P', 'O', 'Y', 'B'],
      ['P', 'O', 'Y', 'G'],
      ['P', 'O', 'Y', 'R'],
      ['P', 'R', 'B', 'G'],
      ['P', 'R', 'B', 'O'],
      ['P', 'R', 'B', 'Y'],
      ['P', 'R', 'G', 'B'],
      ['P', 'R', 'G', 'O'],
      ['P', 'R', 'G', 'Y'],
      ['P', 'R', 'O', 'B'],
      ['P', 'R', 'O', 'G'],
      ['P', 'R', 'O', 'Y'],
      ['P', 'R', 'Y', 'B'],
      ['P', 'R', 'Y', 'G'],
      ['P', 'R', 'Y', 'O'],
      ['P', 'Y', 'B', 'G'],
      ['P', 'Y', 'B', 'O'],
      ['P', 'Y', 'B', 'R'],
      ['P', 'Y', 'G', 'B'],
      ['P', 'Y', 'G', 'O'],
      ['P', 'Y', 'G', 'R'],
      ['P', 'Y', 'O', 'B'],
      ['P', 'Y', 'O', 'G'],
      ['P', 'Y', 'O', 'R'],
      ['P', 'Y', 'R', 'B'],
      ['P', 'Y', 'R', 'G'],
      ['P', 'Y', 'R', 'O']] : List Code),
    ∃ k : Nat, k ≤ 6 ∧ (loopRun (honest s) 7 none S0 []).1 = RunResult.solved s k :=
  List.forall_mem_cons.mpr ⟨⟨4, by decide, fst_of_eq rs70⟩,
  List.forall_mem_cons.mpr ⟨⟨3, by decide, fst_of_eq rs71⟩,
  List.forall_mem_cons.mpr ⟨⟨4, by decide, fst_of_eq rs72⟩,
  List.forall_mem_cons.mpr ⟨⟨4, by decide, fst_of_eq rs73⟩,
  List.forall_mem_cons.mpr ⟨⟨4, by decide, fst_of_eq rs74⟩,
  List.forall_mem_cons.mpr ⟨⟨3, by decide, fst_of_eq rs75⟩,
  List.forall_mem_cons.mpr ⟨⟨2, by decide, fst_of_eq rs76⟩,
  List.forall_mem_cons.mpr ⟨⟨4, by decide, fst_of_eq rs77⟩,
  List.forall_mem_cons.mpr ⟨⟨3, by decide, fst_of_eq rs78⟩,
  List.forall_mem_cons.mpr ⟨⟨4, by decide, fst_of_eq rs79⟩,
  tl8⟩⟩⟩⟩⟩⟩⟩⟩⟩⟩


lemma tl6 : ∀ s ∈ ([['G', 'B', 'O', 'R'],
      ['G', 'B', 'O', 'Y'],
      ['G', 'B', 'O', 'P'],
      ['G', 'B', 'R', 'O'],
      ['G', 'B', 'R', 'Y'],
      ['G', 'B', 'R', 'P'],
      ['G', 'B', 'Y', 'O'],
      ['G', 'B', 'Y', 'R'],
      ['G', 'B', 'Y', 'P'],
      ['G', 'B', 'P', 'O'],
      ['G', 'B', 'P', 'R'],
      ['G', 'B', 'P', 'Y'],
      ['G', 'O', 'B', 'R'],
      ['G', 'O', 'B', 'Y'],
      ['G', 'O', 'B', 'P'],
      ['G', 'O', 'R', 'B'],
      ['G', 'O', 'R', 'Y'],
      ['G', 'O', 'R', 'P'],
      ['G', 'O', 'Y', 'B'],
      ['G', 'O', 'Y', 'R'],
      ['G', 'O', 'Y', 'P'],
      ['G', 'O', 'P', 'B'],
      ['G', 'O', 'P', 'R'],
      ['G', 'O', 'P', 'Y'],
      ['G', 'R', 'B', 'O'],
      ['G', 'R', 'B', 'Y'],
      ['G', 'R', 'B', 'P'],
      ['G', 'R', 'O', 'B'],
      ['G', 'R', 'O', 'Y'],
      ['G', 'R', 'O', 'P'],
      ['G', 'R', 'Y', 'B'],
      ['G', 'R', 'Y', 'O'],
      ['G', 'R', 'Y', 'P'],
      ['G', 'R', 'P', 'B'],
      ['G', 'R', 'P', 'O'],
      ['G', 'R', 'P', 'Y'],
      ['G', 'Y', 'B', 'O'],
      ['G', 'Y', 'B', 'R'],
      ['G', 'Y', 'B', 'P'],
      ['G', 'Y', 'O', 'B'],
      ['G', 'Y', 'O', 'R'],
      ['G', 'Y', 'O', 'P'],
      ['G', 'Y', 'R', 'B'],
      ['G', 'Y', 'R', 'O'],
      ['G', 'Y', 'R', 'P'],
      ['G', 'Y', 'P', 'B'],
      ['G', 'Y', 'P', 'O'],
      ['G', 'Y', 'P', 'R'],
      ['G', 'P', 'B', 'O'],
      ['G', 'P', 'B', 'R'],
      ['G', 'P', 'B', 'Y'],
      ['G', 'P', 'O', 'B'],
      ['G', 'P', 'O', 'R'],
      ['G', 'P', 'O', 'Y'],
      ['G', 'P', 'R', 'B'],
      ['G', 'P', 'R', 'O'],
      ['G', 'P', 'R', 'Y'],
      ['G', 'P', 'Y', 'B'],
      ['G', 'P', 'Y', 'O'],
      ['G', 'P', 'Y', 'R'],
      ['O', 'B', 'G', 'R'],
      ['O', 'B', 'G', 'Y'],
      ['O', 'B', 'G', 'P'],
      ['O', 'B', 'R', 'G'],
      ['O', 'B', 'R', 'Y'],
      ['O', 'B', 'R', 'P'],
      ['O', 'B', 'Y', 'G'],
      ['O', 'B', 'Y', 'R'],
      ['O', 'B', 'Y', 'P'],
      ['O', 'B', 'P', 'G'],
      ['O', 'B', 'P', 'R'],
      ['O', 'B', 'P', 'Y'],
      ['O', 'G', 'B', 'R'],
      ['O', 'G', 'B', 'Y'],
      ['O', 'G', 'B', 'P'],
      ['O', 'G', 'R', 'B'],
      ['O', 'G', 'R', 'Y'],
      ['O', 'G', 'R', 'P'],
      ['O', 'G', 'Y', 'B'],
      ['O', 'G', 'Y', 'R'],
      ['O', 'G', 'Y', 'P'],
      ['O', 'G', 'P', 'B'],
      ['O', 'G', 'P', 'R'],
      ['O', 'G', 'P', 'Y'],
      ['O', 'R', 'B', 'G'],
      ['O', 'R', 'B', 'Y'],
      ['O', 'R', 'B', 'P'],
      ['O', 'R', 'G', 'B'],
      ['O', 'R', 'G', 'Y'],
      ['O', 'R', 'G', 'P'],
      ['O', 'R', 'Y', 'B'],
      ['O', 'R', 'Y', 'G'],
      ['O', 'R', 'Y', 'P'],
      ['O', 'R', 'P', 'B'],
      ['O', 'R', 'P', 'G'],
      ['O', 'R', 'P', 'Y'],
      ['O', 'Y', 'B', 'G'],
      ['O', 'Y', 'B', 'R'],
      ['O', 'Y', 'B', 'P'],
      ['O', 'Y', 'G', 'B'],
      ['O', 'Y', 'G', 'R'],
      ['O', 'Y', 'G', 'P'],
      ['O', 'Y', 'R', 'B'],
      ['O', 'Y', 'R', 'G'],
      ['O', 'Y', 'R', 'P'],
      ['O', 'Y', 'P', 'B'],
      ['O', 'Y', 'P', 'G'],
      ['O', 'Y', 'P', 'R'],
      ['O', 'P', 'B', 'G'],
      ['O', 'P', 'B', 'R'],
      ['O', 'P', 'B', 'Y'],
      ['O', 'P', 'G', 'B'],
      ['O', 'P', 'G', 'R'],
      ['O', 'P', 'G', 'Y'],
      ['O', 'P', 'R', 'B'],
      ['O', 'P', 'R', 'G'],
      ['O', 'P', 'R', 'Y'],
      ['O', 'P', 'Y', 'B'],
      ['O', 'P', 'Y', 'G'],
      ['O', 'P', 'Y', 'R'],
      ['R', 'B', 'G', 'O'],
      ['R', 'B', 'G', 'Y'],
      ['R', 'B', 'G', 'P'],
      ['R', 'B', 'O', 'G'],
      ['R', 'B', 'O', 'Y'],
      ['R', 'B', 'O', 'P'],
      ['R', 'B', 'Y', 'G'],
      ['R', 'B', 'Y', 'O'],
      ['R', 'B', 'Y', 'P'],
      ['R', 'B', 'P', 'G'],
      ['R', 'B', 'P', 'O'],
      ['R', 'B', 'P', 'Y'],
      ['R', 'G', 'B', 'O'],
      ['R', 'G', 'B', 'Y'],
      ['R', 'G', 'B', 'P'],
      ['R', 'G', 'O', 'B'],
      ['R', 'G', 'O', 'Y'],
      ['R', 'G', 'O', 'P'],
      ['R', 'G', 'Y', 'B'],
      ['R', 'G', 'Y', 'O'],
      ['R', 'G', 'Y', 'P'],
      ['R', 'G', 'P', 'B'],
      ['R', 'G', 'P', 'O'],
      ['R', 'G', 'P', 'Y'],
      ['R', 'O', 'B', 'G'],
      ['R', 'O', 'B', 'Y'],
      ['R', 'O', 'B', 'P'],
      ['R', 'O', 'G', 'B'],
      ['R', 'O', 'G', 'Y'],
      ['R', 'O', 'G', 'P'],
      ['R', 'O', 'Y', 'B'],
      ['R', 'O', 'Y', 'G'],
      ['R', 'O', 'Y', 'P'],
      ['R', 'O', 'P', 'B'],
      ['R', 'O', 'P', 'G'],
      ['R', 'O', 'P', 'Y'],
      ['R', 'Y', 'B', 'G'],
      ['R', 'Y', 'B', 'O'],
      ['R', 'Y', 'B', 'P'],
      ['R', 'Y', 'G', 'B'],
      ['R', 'Y', 'G', 'O'],
      ['R', 'Y', 'G', 'P'],
      ['R', 'Y', 'O', 'B'],
      ['R', 'Y', 'O', 'G'],
      ['R', 'Y', 'O', 'P'],
      ['R', 'Y', 'P', 'B'],
      ['R', 'Y', 'P', 'G'],
      ['R', 'Y', 'P', 'O'],
      ['R', 'P', 'B', 'G'],
      ['R', 'P', 'B', 'O'],
      ['R', 'P', 'B', 'Y'],
      ['R', 'P', 'G', 'B'],
      ['R', 'P', 'G', 'O'],
      ['R', 'P', 'G', 'Y'],
      ['R', 'P', 'O', 'B'],
      ['R', 'P', 'O', 'G'],
      ['R', 'P', 'O', 'Y'],
      ['R', 'P', 'Y', 'B'],
      ['R', 'P', 'Y', 'G'],
      ['R', 'P', 'Y', 'O'],
      ['Y', 'B', 'G', 'O'],
      ['Y', 'B', 'G', 'R'],
      ['Y', 'B', 'G', 'P'],
      ['Y', 'B', 'O', 'G'],
      ['Y', 'B', 'O', 'R'],
      ['Y', 'B', 'O', 'P'],
      ['Y', 'B', 'R', 'G'],
      ['Y', 'B', 'R', 'O'],
      ['Y', 'B', 'R', 'P'],
      ['Y', 'B', 'P', 'G'],
      ['Y', 'B', 'P', 'O'],
      ['Y', 'B', 'P', 'R'],
      ['Y', 'G', 'B', 'O'],
      ['Y', 'G', 'B', 'R'],
      ['Y', 'G', 'B', 'P'],
      ['Y', 'G', 'O', 'B'],
      ['Y', 'G', 'O', 'R'],
      ['Y', 'G', 'O', 'P'],
      ['Y', 'G', 'R', 'B'],
      ['Y', 'G', 'R', 'O'],
      ['Y', 'G', 'R', 'P'],
      ['Y', 'G', 'P', 'B'],
      ['Y', 'G', 'P', 'O'],
      ['Y', 'G', 'P', 'R'],
      ['Y', 'O', 'B', 'G'],
      ['Y', 'O', 'B', 'R'],
      ['Y', 'O', 'B', 'P'],
      ['Y', 'O', 'G', 'B'],
      ['Y', 'O', 'G', 'R'],
      ['Y', 'O', 'G', 'P'],
      ['Y', 'O', 'R', 'B'],
      ['Y', 'O', 'R', 'G'],
      ['Y', 'O', 'R', 'P'],
      ['Y', 'O', 'P', 'B'],
      ['Y', 'O', 'P', 'G'],
      ['Y', 'O', 'P', 'R'],
      ['Y', 'R', 'B', 'G'],
      ['Y', 'R', 'B', 'O'],
      ['Y', 'R', 'B', 'P'],
      ['Y', 'R', 'G', 'B'],
      ['Y', 'R', 'G', 'O'],
      ['Y', 'R', 'G', 'P'],
      ['Y', 'R', 'O', 'B'],
      ['Y', 'R', 'O', 'G'],
      ['Y', 'R', 'O', 'P'],
      ['Y', 'R', 'P', 'B'],
      ['Y', 'R', 'P', 'G'],
      ['Y', 'R', 'P', 'O'],
      ['Y', 'P', 'B', 'G'],
      ['Y', 'P', 'B', 'O'],
      ['Y', 'P', 'B', 'R'],
      ['Y', 'P', 'G', 'B'],
      ['Y', 'P', 'G', 'O'],
      ['Y', 'P', 'G', 'R'],
      ['Y', 'P', 'O', 'B'],
      ['Y', 'P', 'O', 'G'],
      ['Y', 'P', 'O', 'R'],
      ['Y', 'P', 'R', 'B'],
      ['Y', 'P', 'R', 'G'],
      ['Y', 'P', 'R', 'O'],
      ['P', 'B', 'G', 'O'],
      ['P', 'B', 'G', 'R'],
      ['P', 'B', 'G', 'Y'],
      ['P', 'B', 'O', 'G'],
      ['P', 'B', 'O', 'R'],
      ['P', 'B', 'O', 'Y'],
      ['P', 'B', 'R', 'G'],
      ['P', 'B', 'R', 'O'],
      ['P', 'B', 'R', 'Y'],
      ['P', 'B', 'Y', 'G'],
      ['P', 'B', 'Y', 'O'],
      ['P', 'B', 'Y', 'R'],
      ['P', 'G', 'B', 'O'],
      ['P', 'G', 'B', 'R'],
      ['P', 'G', 'B', 'Y'],
      ['P', 'G', 'O', 'B'],
      ['P', 'G', 'O', 'R'],
      ['P', 'G', 'O', 'Y'],
      ['P', 'G', 'R', 'B'],
      ['P', 'G', 'R', 'O'],
      ['P', 'G', 'R', 'Y'],
      ['P', 'G', 'Y', 'B'],
      ['P', 'G', 'Y', 'O'],
      ['P', 'G', 'Y', 'R'],
      ['P', 'O', 'B', 'G'],
      ['P', 'O', 'B', 'R'],
      ['P', 'O', 'B', 'Y'],
      ['P', 'O', 'G', 'B'],
      ['P', 'O', 'G', 'R'],
      ['P', 'O', 'G', 'Y'],
      ['P', 'O', 'R', 'B'],
      ['P', 'O', 'R', 'G'],
      ['P', 'O', 'R', 'Y'],
      ['P', 'O', 'Y', 'B'],
      ['P', 'O', 'Y', 'G'],
      ['P', 'O', 'Y', 'R'],
      ['P', 'R', 'B', 'G'],
      ['P', 'R', 'B', 'O'],
      ['P', 'R', 'B', 'Y'],
      ['P', 'R', 'G', 'B'],
      ['P', 'R', 'G', 'O'],
      ['P', 'R', 'G', 'Y'],
      ['P', 'R', 'O', 'B'],
      ['P', 'R', 'O', 'G'],
      ['P', 'R', 'O', 'Y'],
      ['P', 'R', 'Y', 'B'],
      ['P', 'R', 'Y', 'G'],
      ['P', 'R', 'Y', 'O'],
      ['P', 'Y', 'B', 'G'],
      ['P', 'Y', 'B', 'O'],
      ['P', 'Y', 'B', 'R'],
      ['P', 'Y', 'G', 'B'],
      ['P', 'Y', 'G', 'O'],
      ['P', 'Y', 'G', 'R'],
      ['P', 'Y', 'O', 'B'],
      ['P', 'Y', 'O', 'G'],
      ['P', 'Y', 'O', 'R'],
      ['P', 'Y', 'R', 'B'],
      ['P', 'Y', 'R', 'G'],
      ['P', 'Y', 'R', 'O']] : List Code),
    ∃ k : Nat, k ≤ 6 ∧ (loopRun (honest s) 7 none S0 []).1 = RunResult.solved s k :=
  List.forall_mem_cons.mpr ⟨⟨3, by decide, fst_of_eq rs60⟩,
  List.forall_mem_cons.mpr ⟨⟨4, by decide, fst_of_eq rs61⟩,
  List.forall_mem_cons.mpr ⟨⟨4, by decide, fst_of_eq rs62⟩,
  List.forall_mem_cons.mpr ⟨⟨2, by decide, fst_of_eq rs63⟩,
  List.forall_mem_cons.mpr ⟨⟨3, by decide, fst_of_eq rs64⟩,
  List.forall_mem_cons.mpr ⟨⟨3, by decide, fst_of_eq rs65⟩,
  List.forall_mem_cons.mpr ⟨⟨3, by decide, fst_of_eq rs66⟩,
  List.forall_mem_cons.mpr ⟨⟨5, by decide, fst_of_eq rs67⟩,
  List.forall_mem_cons.mpr ⟨⟨4, by decide, fst_of_eq rs68⟩,
  List.forall_mem_cons.mpr ⟨⟨4, by decide, fst_of_eq rs69⟩,
  tl7⟩⟩⟩⟩⟩⟩⟩⟩⟩⟩


lemma tl5 : ∀ s ∈ ([['B', 'P', 'G', 'Y'],
      ['B', 'P', 'O', 'G'],
      ['B', 'P', 'O', 'R'],
      ['B', 'P', 'O', 'Y'],
      ['B', 'P', 'R', 'G'],
      ['B', 'P', 'R', 'O'],
      ['B', 'P', 'R', 'Y'],
      ['B', 'P', 'Y', 'G'],
      ['B', 'P', 'Y', 'O'],
      ['B', 'P', 'Y', 'R'],
      ['G', 'B', 'O', 'R'],
      ['G', 'B', 'O', 'Y'],
      ['G', 'B', 'O', 'P'],
      ['G', 'B', 'R', 'O'],
      ['G', 'B', 'R', 'Y'],
      ['G', 'B', 'R', 'P'],
      ['G', 'B', 'Y', 'O'],
      ['G', 'B', 'Y', 'R'],
      ['G', 'B', 'Y', 'P'],
      ['G', 'B', 'P', 'O'],
      ['G', 'B', 'P', 'R'],
      ['G', 'B', 'P', 'Y'],
      ['G', 'O', 'B', 'R'],
      ['G', 'O', 'B', 'Y'],
      ['G', 'O', 'B', 'P'],
      ['G', 'O', 'R', 'B'],
      ['G', 'O', 'R', 'Y'],
      ['G', 'O', 'R', 'P'],
      ['G', 'O', 'Y', 'B'],
      ['G', 'O', 'Y', 'R'],
      ['G', 'O', 'Y', 'P'],
      ['G', 'O', 'P', 'B'],
      ['G', 'O', 'P', 'R'],
      ['G', 'O', 'P', 'Y'],
      ['G', 'R', 'B', 'O'],
      ['G', 'R', 'B', 'Y'],
      ['G', 'R', 'B', 'P'],
      ['G', 'R', 'O', 'B'],
      ['G', 'R', 'O', 'Y'],
      ['G', 'R', 'O', 'P'],
      ['G', 'R', 'Y', 'B'],
      ['G', 'R', 'Y', 'O'],
      ['G', 'R', 'Y', 'P'],
      ['G', 'R', 'P', 'B'],
      ['G', 'R', 'P', 'O'],
      ['G', 'R', 'P', 'Y'],
      ['G', 'Y', 'B', 'O'],
      ['G', 'Y', 'B', 'R'],
      ['G', 'Y', 'B', 'P'],
      ['G', 'Y', 'O', 'B'],
      ['G', 'Y', 'O', 'R'],
      ['G', 'Y', 'O', 'P'],
      ['G', 'Y', 'R', 'B'],
      ['G', 'Y', 'R', 'O'],
      ['G', 'Y', 'R', 'P'],
      ['G', 'Y', 'P', 'B'],
      ['G', 'Y', 'P', 'O'],
      ['G', 'Y', 'P', 'R'],
      ['G', 'P', 'B', 'O'],
      ['G', 'P', 'B', 'R'],
      ['G', 'P', 'B', 'Y'],
      ['G', 'P', 'O', 'B'],
      ['G', 'P', 'O', 'R'],
      ['G', 'P', 'O', 'Y'],
      ['G', 'P', 'R', 'B'],
      ['G', 'P', 'R', 'O'],
      ['G', 'P', 'R', 'Y'],
      ['G', 'P', 'Y', 'B'],
      ['G', 'P', 'Y', 'O'],
      ['G', 'P', 'Y', 'R'],
      ['O', 'B', 'G', 'R'],
      ['O', 'B', 'G', 'Y'],
      ['O', 'B', 'G', 'P'],
      ['O', 'B', 'R', 'G'],
      ['O', 'B', 'R', 'Y'],
      ['O', 'B', 'R', 'P'],
      ['O', 'B', 'Y', 'G'],
      ['O', 'B', 'Y', 'R'],
      ['O', 'B', 'Y', 'P'],
      ['O', 'B', 'P', 'G'],
      ['O', 'B', 'P', 'R'],
      ['O', 'B', 'P', 'Y'],
      ['O', 'G', 'B', 'R'],
      ['O', 'G', 'B', 'Y'],
      ['O', 'G', 'B', 'P'],
      ['O', 'G', 'R', 'B'],
      ['O', 'G', 'R', 'Y'],
      ['O', 'G', 'R', 'P'],
      ['O', 'G', 'Y', 'B'],
      ['O', 'G', 'Y', 'R'],
      ['O', 'G', 'Y', 'P'],
      ['O', 'G', 'P', 'B'],
      ['O', 'G', 'P', 'R'],
      ['O', 'G', 'P', 'Y'],
      ['O', 'R', 'B', 'G'],
      ['O', 'R', 'B', 'Y'],
      ['O', 'R', 'B', 'P'],
      ['O', 'R', 'G', 'B'],
      ['O', 'R', 'G', 'Y'],
      ['O', 'R', 'G', 'P'],
      ['O', 'R', 'Y', 'B'],
      ['O', 'R', 'Y', 'G'],
      ['O', 'R', 'Y', 'P'],
      ['O', 'R', 'P', 'B'],
      ['O', 'R', 'P', 'G'],
      ['O', 'R', 'P', 'Y'],
      ['O', 'Y', 'B', 'G'],
      ['O', 'Y', 'B', 'R'],
      ['O', 'Y', 'B', 'P'],
      ['O', 'Y', 'G', 'B'],
      ['O', 'Y', 'G', 'R'],
      ['O', 'Y', 'G', 'P'],
      ['O', 'Y', 'R', 'B'],
      ['O', 'Y', 'R', 'G'],
      ['O', 'Y', 'R', 'P'],
      ['O', 'Y', 'P', 'B'],
      ['O', 'Y', 'P', 'G'],
      ['O', 'Y', 'P', 'R'],
      ['O', 'P', 'B', 'G'],
      ['O', 'P', 'B', 'R'],
      ['O', 'P', 'B', 'Y'],
      ['O', 'P', 'G', 'B'],
      ['O', 'P', 'G', 'R'],
      ['O', 'P', 'G', 'Y'],
      ['O', 'P', 'R', 'B'],
      ['O', 'P', 'R', 'G'],
      ['O', 'P', 'R', 'Y'],
      ['O', 'P', 'Y', 'B'],
      ['O', 'P', 'Y', 'G'],
      ['O', 'P', 'Y', 'R'],
      ['R', 'B', 'G', 'O'],
      ['R', 'B', 'G', 'Y'],
      ['R', 'B', 'G', 'P'],
      ['R', 'B', 'O', 'G'],
      ['R', 'B', 'O', 'Y'],
      ['R', 'B', 'O', 'P'],
      ['R', 'B', 'Y', 'G'],
      ['R', 'B', 'Y', 'O'],
      ['R', 'B', 'Y', 'P'],
      ['R', 'B', 'P', 'G'],
      ['R', 'B', 'P', 'O'],
      ['R', 'B', 'P', 'Y'],
      ['R', 'G', 'B', 'O'],
      ['R', 'G', 'B', 'Y'],
      ['R', 'G', 'B', 'P'],
      ['R', 'G', 'O', 'B'],
      ['R', 'G', 'O', 'Y'],
      ['R', 'G', 'O', 'P'],
      ['R', 'G', 'Y', 'B'],
      ['R', 'G', 'Y', 'O'],
      ['R', 'G', 'Y', 'P'],
      ['R', 'G', 'P', 'B'],
      ['R', 'G', 'P', 'O'],
      ['R', 'G', 'P', 'Y'],
      ['R', 'O', 'B', 'G'],
      ['R', 'O', 'B', 'Y'],
      ['R', 'O', 'B', 'P'],
      ['R', 'O', 'G', 'B'],
      ['R', 'O', 'G', 'Y'],
      ['R', 'O', 'G', 'P'],
      ['R', 'O', 'Y', 'B'],
      ['R', 'O', 'Y', 'G'],
      ['R', 'O', 'Y', 'P'],
      ['R', 'O', 'P', 'B'],
      ['R', 'O', 'P', 'G'],
      ['R', 'O', 'P', 'Y'],
      ['R', 'Y', 'B', 'G'],
      ['R', 'Y', 'B', 'O'],
      ['R', 'Y', 'B', 'P'],
      ['R', 'Y', 'G', 'B'],
      ['R', 'Y', 'G', 'O'],
      ['R', 'Y', 'G', 'P'],
      ['R', 'Y', 'O', 'B'],
      ['R', 'Y', 'O', 'G'],
      ['R', 'Y', 'O', 'P'],
      ['R', 'Y', 'P', 'B'],
      ['R', 'Y', 'P', 'G'],
      ['R', 'Y', 'P', 'O'],
      ['R', 'P', 'B', 'G'],
      ['R', 'P', 'B', 'O'],
      ['R', 'P', 'B', 'Y'],
      ['R', 'P', 'G', 'B'],
      ['R', 'P', 'G', 'O'],
      ['R', 'P', 'G', 'Y'],
      ['R', 'P', 'O', 'B'],
      ['R', 'P', 'O', 'G'],
      ['R', 'P', 'O', 'Y'],
      ['R', 'P', 'Y', 'B'],
      ['R', 'P', 'Y', 'G'],
      ['R', 'P', 'Y', 'O'],
      ['Y', 'B', 'G', 'O'],
      ['Y', 'B', 'G', 'R'],
      ['Y', 'B', 'G', 'P'],
      ['Y', 'B', 'O', 'G'],
      ['Y', 'B', 'O', 'R'],
      ['Y', 'B', 'O', 'P'],
      ['Y', 'B', 'R', 'G'],
      ['Y', 'B', 'R', 'O'],
      ['Y', 'B', 'R', 'P'],
      ['Y', 'B', 'P', 'G'],
      ['Y', 'B', 'P', 'O'],
      ['Y', 'B', 'P', 'R'],
      ['Y', 'G', 'B', 'O'],
      ['Y', 'G', 'B', 'R'],
      ['Y', 'G', 'B', 'P'],
      ['Y', 'G', 'O', 'B'],
      ['Y', 'G', 'O', 'R'],
      ['Y', 'G', 'O', 'P'],
      ['Y', 'G', 'R', 'B'],
      ['Y', 'G', 'R', 'O'],
      ['Y', 'G', 'R', 'P'],
      ['Y', 'G', 'P', 'B'],
      ['Y', 'G', 'P', 'O'],
      ['Y', 'G', 'P', 'R'],
      ['Y', 'O', 'B', 'G'],
      ['Y', 'O', 'B', 'R'],
      ['Y', 'O', 'B', 'P'],
      ['Y', 'O', 'G', 'B'],
      ['Y', 'O', 'G', 'R'],
      ['Y', 'O', 'G', 'P'],
      ['Y', 'O', 'R', 'B'],
      ['Y', 'O', 'R', 'G'],
      ['Y', 'O', 'R', 'P'],
      ['Y', 'O', 'P', 'B'],
      ['Y', 'O', 'P', 'G'],
      ['Y', 'O', 'P', 'R'],
      ['Y', 'R', 'B', 'G'],
      ['Y', 'R', 'B', 'O'],
      ['Y', 'R', 'B', 'P'],
      ['Y', 'R', 'G', 'B'],
      ['Y', 'R', 'G', 'O'],
      ['Y', 'R', 'G', 'P'],
      ['Y', 'R', 'O', 'B'],
      ['Y', 'R', 'O', 'G'],
      ['Y', 'R', 'O', 'P'],
      ['Y', 'R', 'P', 'B'],
      ['Y', 'R', 'P', 'G'],
      ['Y', 'R', 'P', 'O'],
      ['Y', 'P', 'B', 'G'],
      ['Y', 'P', 'B', 'O'],
      ['Y', 'P', 'B', 'R'],
      ['Y', 'P', 'G', 'B'],
      ['Y', 'P', 'G', 'O'],
      ['Y', 'P', 'G', 'R'],
      ['Y', 'P', 'O', 'B'],
      ['Y', 'P', 'O', 'G'],
      ['Y', 'P', 'O', 'R'],
      ['Y', 'P', 'R', 'B'],
      ['Y', 'P', 'R', 'G'],
      ['Y', 'P', 'R', 'O'],
      ['P', 'B', 'G', 'O'],
      ['P', 'B', 'G', 'R'],
      ['P', 'B', 'G', 'Y'],
      ['P', 'B', 'O', 'G'],
      ['P', 'B', 'O', 'R'],
      ['P', 'B', 'O', 'Y'],
      ['P', 'B', 'R', 'G'],
      ['P', 'B', 'R', 'O'],
      ['P', 'B', 'R', 'Y'],
      ['P', 'B', 'Y', 'G'],
      ['P', 'B', 'Y', 'O'],
      ['P', 'B', 'Y', 'R'],
      ['P', 'G', 'B', 'O'],
      ['P', 'G', 'B', 'R'],
      ['P', 'G', 'B', 'Y'],
      ['P', 'G', 'O', 'B'],
      ['P', 'G', 'O', 'R'],
      ['P', 'G', 'O', 'Y'],
      ['P', 'G', 'R', 'B'],
      ['P', 'G', 'R', 'O'],
      ['P', 'G', 'R', 'Y'],
      ['P', 'G', 'Y', 'B'],
      ['P', 'G', 'Y', 'O'],
      ['P', 'G', 'Y', 'R'],
      ['P', 'O', 'B', 'G'],
      ['P', 'O', 'B', 'R'],
      ['P', 'O', 'B', 'Y'],
      ['P', 'O', 'G', 'B'],
      ['P', 'O', 'G', 'R'],
      ['P', 'O', 'G', 'Y'],
      ['P', 'O', 'R', 'B'],
      ['P', 'O', 'R', 'G'],
      ['P', 'O', 'R', 'Y'],
      ['P', 'O', 'Y', 'B'],
      ['P', 'O', 'Y', 'G'],
      ['P', 'O', 'Y', 'R'],
      ['P', 'R', 'B', 'G'],
      ['P', 'R', 'B', 'O'],
      ['P', 'R', 'B', 'Y'],
      ['P', 'R', 'G', 'B'],
      ['P', 'R', 'G', 'O'],
      ['P', 'R', 'G', 'Y'],
      ['P', 'R', 'O', 'B'],
      ['P', 'R', 'O', 'G'],
      ['P', 'R', 'O', 'Y'],
      ['P', 'R', 'Y', 'B'],
      ['P', 'R', 'Y', 'G'],
      ['P', 'R', 'Y', 'O'],
      ['P', 'Y', 'B', 'G'],
      ['P', 'Y', 'B', 'O'],
      ['P', 'Y', 'B', 'R'],
      ['P', 'Y', 'G', 'B'],
      ['P', 'Y', 'G', 'O'],
      ['P', 'Y', 'G', 'R'],
      ['P', 'Y', 'O', 'B'],
      ['P', 'Y', 'O', 'G'],
      ['P', 'Y', 'O', 'R'],
      ['P', 'Y', 'R', 'B'],
      ['P', 'Y', 'R', 'G'],
      ['P', 'Y', 'R', 'O']] : List Code),
    ∃ k : Nat, k ≤ 6 ∧ (loopRun (honest s) 7 none S0 []).1 = RunResult.solved s k :=
  List.forall_mem_cons.mpr ⟨⟨4, by decide, fst_of_eq rs50⟩,
  List.forall_mem_cons.mpr ⟨⟨4, by decide, fst_of_eq rs51⟩,
  List.forall_mem_cons.mpr ⟨⟨4, by decide, fst_of_eq rs52⟩,
  List.forall_mem_cons.mpr ⟨⟨4, by decide, fst_of_eq rs53⟩,
  List.forall_mem_cons.mpr ⟨⟨4, by decide, fst_of_eq rs54⟩,
  List.forall_mem_cons.mpr ⟨⟨4, by decide, fst_of_eq rs55⟩,
  List.forall_mem_cons.mpr ⟨⟨4, by decide, fst_of_eq rs56⟩,
  List.forall_mem_cons.mpr ⟨⟨4, by decide, fst_of_eq rs57⟩,
  List.forall_mem_cons.mpr ⟨⟨4, by decide, fst_of_eq rs58⟩,
  List.forall_mem_cons.mpr ⟨⟨4, by decide, fst_of_eq rs59⟩,
  tl6⟩⟩⟩⟩⟩⟩⟩⟩⟩⟩


lemma tl4 : ∀ s ∈ ([['B', 'Y', 'O', 'R'],
      ['B', 'Y', 'O', 'P'],
      ['B', 'Y', 'R', 'G'],
      ['B', 'Y', 'R', 'O'],
      ['B', 'Y', 'R', 'P'],
      ['B', 'Y', 'P', 'G'],
      ['B', 'Y', 'P', 'O'],
      ['B', 'Y', 'P', 'R'],
      ['B', 'P', 'G', 'O'],
      ['B', 'P', 'G', 'R'],
      ['B', 'P', 'G', 'Y'],
      ['B', 'P', 'O', 'G'],
      ['B', 'P', 'O', 'R'],
      ['B', 'P', 'O', 'Y'],
      ['B', 'P', 'R', 'G'],
      ['B', 'P', 'R', 'O'],
      ['B', 'P', 'R', 'Y'],
      ['B', 'P', 'Y', 'G'],
      ['B', 'P', 'Y', 'O'],
      ['B', 'P', 'Y', 'R'],
      ['G', 'B', 'O', 'R'],
      ['G', 'B', 'O', 'Y'],
      ['G', 'B', 'O', 'P'],
      ['G', 'B', 'R', 'O'],
      ['G', 'B', 'R', 'Y'],
      ['G', 'B', 'R', 'P'],
      ['G', 'B', 'Y', 'O'],
      ['G', 'B', 'Y', 'R'],
      ['G', 'B', 'Y', 'P'],
      ['G', 'B', 'P', 'O'],
      ['G', 'B', 'P', 'R'],
      ['G', 'B', 'P', 'Y'],
      ['G', 'O', 'B', 'R'],
      ['G', 'O', 'B', 'Y'],
      ['G', 'O', 'B', 'P'],
      ['G', 'O', 'R', 'B'],
      ['G', 'O', 'R', 'Y'],
      ['G', 'O', 'R', 'P'],
      ['G', 'O', 'Y', 'B'],
      ['G', 'O', 'Y', 'R'],
      ['G', 'O', 'Y', 'P'],
      ['G', 'O', 'P', 'B'],
      ['G', 'O', 'P', 'R'],
      ['G', 'O', 'P', 'Y'],
      ['G', 'R', 'B', 'O'],
      ['G', 'R', 'B', 'Y'],
      ['G', 'R', 'B', 'P'],
      ['G', 'R', 'O', 'B'],
      ['G', 'R', 'O', 'Y'],
      ['G', 'R', 'O', 'P'],
      ['G', 'R', 'Y', 'B'],
      ['G', 'R', 'Y', 'O'],
      ['G', 'R', 'Y', 'P'],
      ['G', 'R', 'P', 'B'],
      ['G', 'R', 'P', 'O'],
      ['G', 'R', 'P', 'Y'],
      ['G', 'Y', 'B', 'O'],
      ['G', 'Y', 'B', 'R'],
      ['G', 'Y', 'B', 'P'],
      ['G', 'Y', 'O', 'B'],
      ['G', 'Y', 'O', 'R'],
      ['G', 'Y', 'O', 'P'],
      ['G', 'Y', 'R', 'B'],
      ['G', 'Y', 'R', 'O'],
      ['G', 'Y', 'R', 'P'],
      ['G', 'Y', 'P', 'B'],
      ['G', 'Y', 'P', 'O'],
      ['G', 'Y', 'P', 'R'],
      ['G', 'P', 'B', 'O'],
      ['G', 'P', 'B', 'R'],
      ['G', 'P', 'B', 'Y'],
      ['G', 'P', 'O', 'B'],
      ['G', 'P', 'O', 'R'],
      ['G', 'P', 'O', 'Y'],
      ['G', 'P', 'R', 'B'],
      ['G', 'P', 'R', 'O'],
      ['G', 'P', 'R', 'Y'],
      ['G', 'P', 'Y', 'B'],
      ['G', 'P', 'Y', 'O'],
      ['G', 'P', 'Y', 'R'],
      ['O', 'B', 'G', 'R'],
      ['O', 'B', 'G', 'Y'],
      ['O', 'B', 'G', 'P'],
      ['O', 'B', 'R', 'G'],
      ['O', 'B', 'R', 'Y'],
      ['O', 'B', 'R', 'P'],
      ['O', 'B', 'Y', 'G'],
      ['O', 'B', 'Y', 'R'],
      ['O', 'B', 'Y', 'P'],
      ['O', 'B', 'P', 'G'],
      ['O', 'B', 'P', 'R'],
      ['O', 'B', 'P', 'Y'],
      ['O', 'G', 'B', 'R'],
      ['O', 'G', 'B', 'Y'],
      ['O', 'G', 'B', 'P'],
      ['O', 'G', 'R', 'B'],
      ['O', 'G', 'R', 'Y'],
      ['O', 'G', 'R', 'P'],
      ['O', 'G', 'Y', 'B'],
      ['O', 'G', 'Y', 'R'],
      ['O', 'G', 'Y', 'P'],
      ['O', 'G', 'P', 'B'],
      ['O', 'G', 'P', 'R'],
      ['O', 'G', 'P', 'Y'],
      ['O', 'R', 'B', 'G'],
      ['O', 'R', 'B', 'Y'],
      ['O', 'R', 'B', 'P'],
      ['O', 'R', 'G', 'B'],
      ['O', 'R', 'G', 'Y'],
      ['O', 'R', 'G', 'P'],
      ['O', 'R', 'Y', 'B'],
      ['O', 'R', 'Y', 'G'],
      ['O', 'R', 'Y', 'P'],
      ['O', 'R', 'P', 'B'],
      ['O', 'R', 'P', 'G'],
      ['O', 'R', 'P', 'Y'],
      ['O', 'Y', 'B', 'G'],
      ['O', 'Y', 'B', 'R'],
      ['O', 'Y', 'B', 'P'],
      ['O', 'Y', 'G', 'B'],
      ['O', 'Y', 'G', 'R'],
      ['O', 'Y', 'G', 'P'],
      ['O', 'Y', 'R', 'B'],
      ['O', 'Y', 'R', 'G'],
      ['O', 'Y', 'R', 'P'],
      ['O', 'Y', 'P', 'B'],
      ['O', 'Y', 'P', 'G'],
      ['O', 'Y', 'P', 'R'],
      ['O', 'P', 'B', 'G'],
      ['O', 'P', 'B', 'R'],
      ['O', 'P', 'B', 'Y'],
      ['O', 'P', 'G', 'B'],
      ['O', 'P', 'G', 'R'],
      ['O', 'P', 'G', 'Y'],
      ['O', 'P', 'R', 'B'],
      ['O', 'P', 'R', 'G'],
      ['O', 'P', 'R', 'Y'],
      ['O', 'P', 'Y', 'B'],
      ['O', 'P', 'Y', 'G'],
      ['O', 'P', 'Y', 'R'],
      ['R', 'B', 'G', 'O'],
      ['R', 'B', 'G', 'Y'],
      ['R', 'B', 'G', 'P'],
      ['R', 'B', 'O', 'G'],
      ['R', 'B', 'O', 'Y'],
      ['R', 'B', 'O', 'P'],
      ['R', 'B', 'Y', 'G'],
      ['R', 'B', 'Y', 'O'],
      ['R', 'B', 'Y', 'P'],
      ['R', 'B', 'P', 'G'],
      ['R', 'B', 'P', 'O'],
      ['R', 'B', 'P', 'Y'],
      ['R', 'G', 'B', 'O'],
      ['R', 'G', 'B', 'Y'],
      ['R', 'G', 'B', 'P'],
      ['R', 'G', 'O', 'B'],
      ['R', 'G', 'O', 'Y'],
      ['R', 'G', 'O', 'P'],
      ['R', 'G', 'Y', 'B'],
      ['R', 'G', 'Y', 'O'],
      ['R', 'G', 'Y', 'P'],
      ['R', 'G', 'P', 'B'],
      ['R', 'G', 'P', 'O'],
      ['R', 'G', 'P', 'Y'],
      ['R', 'O', 'B', 'G'],
      ['R', 'O', 'B', 'Y'],
      ['R', 'O', 'B', 'P'],
      ['R', 'O', 'G', 'B'],
      ['R', 'O', 'G', 'Y'],
      ['R', 'O', 'G', 'P'],
      ['R', 'O', 'Y', 'B'],
      ['R', 'O', 'Y', 'G'],
      ['R', 'O', 'Y', 'P'],
      ['R', 'O', 'P', 'B'],
      ['R', 'O', 'P', 'G'],
      ['R', 'O', 'P', 'Y'],
      ['R', 'Y', 'B', 'G'],
      ['R', 'Y', 'B', 'O'],
      ['R', 'Y', 'B', 'P'],
      ['R', 'Y', 'G', 'B'],
      ['R', 'Y', 'G', 'O'],
      ['R', 'Y', 'G', 'P'],
      ['R', 'Y', 'O', 'B'],
      ['R', 'Y', 'O', 'G'],
      ['R', 'Y', 'O', 'P'],
      ['R', 'Y', 'P', 'B'],
      ['R', 'Y', 'P', 'G'],
      ['R', 'Y', 'P', 'O'],
      ['R', 'P', 'B', 'G'],
      ['R', 'P', 'B', 'O'],
      ['R', 'P', 'B', 'Y'],
      ['R', 'P', 'G', 'B'],
      ['R', 'P', 'G', 'O'],
      ['R', 'P', 'G', 'Y'],
      ['R', 'P', 'O', 'B'],
      ['R', 'P', 'O', 'G'],
      ['R', 'P', 'O', 'Y'],
      ['R', 'P', 'Y', 'B'],
      ['R', 'P', 'Y', 'G'],
      ['R', 'P', 'Y', 'O'],
      ['Y', 'B', 'G', 'O'],
      ['Y', 'B', 'G', 'R'],
      ['Y', 'B', 'G', 'P'],
      ['Y', 'B', 'O', 'G'],
      ['Y', 'B', 'O', 'R'],
      ['Y', 'B', 'O', 'P'],
      ['Y', 'B', 'R', 'G'],
      ['Y', 'B', 'R', 'O'],
      ['Y', 'B', 'R', 'P'],
      ['Y', 'B', 'P', 'G'],
      ['Y', 'B', 'P', 'O'],
      ['Y', 'B', 'P', 'R'],
      ['Y', 'G', 'B', 'O'],
      ['Y', 'G', 'B', 'R'],
      ['Y', 'G', 'B', 'P'],
      ['Y', 'G', 'O', 'B'],
      ['Y', 'G', 'O', 'R'],
      ['Y', 'G', 'O', 'P'],
      ['Y', 'G', 'R', 'B'],
      ['Y', 'G', 'R', 'O'],
      ['Y', 'G', 'R', 'P'],
      ['Y', 'G', 'P', 'B'],
      ['Y', 'G', 'P', 'O'],
      ['Y', 'G', 'P', 'R'],
      ['Y', 'O', 'B', 'G'],
      ['Y', 'O', 'B', 'R'],
      ['Y', 'O', 'B', 'P'],
      ['Y', 'O', 'G', 'B'],
      ['Y', 'O', 'G', 'R'],
      ['Y', 'O', 'G', 'P'],
      ['Y', 'O', 'R', 'B'],
      ['Y', 'O', 'R', 'G'],
      ['Y', 'O', 'R', 'P'],
      ['Y', 'O', 'P', 'B'],
      ['Y', 'O', 'P', 'G'],
      ['Y', 'O', 'P', 'R'],
      ['Y', 'R', 'B', 'G'],
      ['Y', 'R', 'B', 'O'],
      ['Y', 'R', 'B', 'P'],
      ['Y', 'R', 'G', 'B'],
      ['Y', 'R', 'G', 'O'],
      ['Y', 'R', 'G', 'P'],
      ['Y', 'R', 'O', 'B'],
      ['Y', 'R', 'O', 'G'],
      ['Y', 'R', 'O', 'P'],
      ['Y', 'R', 'P', 'B'],
      ['Y', 'R', 'P', 'G'],
      ['Y', 'R', 'P', 'O'],
      ['Y', 'P', 'B', 'G'],
      ['Y', 'P', 'B', 'O'],
      ['Y', 'P', 'B', 'R'],
      ['Y', 'P', 'G', 'B'],
      ['Y', 'P', 'G', 'O'],
      ['Y', 'P', 'G', 'R'],
      ['Y', 'P', 'O', 'B'],
      ['Y', 'P', 'O', 'G'],
      ['Y', 'P', 'O', 'R'],
      ['Y', 'P', 'R', 'B'],
      ['Y', 'P', 'R', 'G'],
      ['Y', 'P', 'R', 'O'],
      ['P', 'B', 'G', 'O'],
      ['P', 'B', 'G', 'R'],
      ['P', 'B', 'G', 'Y'],
      ['P', 'B', 'O', 'G'],
      ['P', 'B', 'O', 'R'],
      ['P', 'B', 'O', 'Y'],
      ['P', 'B', 'R', 'G'],
      ['P', 'B', 'R', 'O'],
      ['P', 'B', 'R', 'Y'],
      ['P', 'B', 'Y', 'G'],
      ['P', 'B', 'Y', 'O'],
      ['P', 'B', 'Y', 'R'],
      ['P', 'G', 'B', 'O'],
      ['P', 'G', 'B', 'R'],
      ['P', 'G', 'B', 'Y'],
      ['P', 'G', 'O', 'B'],
      ['P', 'G', 'O', 'R'],
      ['P', 'G', 'O', 'Y'],
      ['P', 'G', 'R', 'B'],
      ['P', 'G', 'R', 'O'],
      ['P', 'G', 'R', 'Y'],
      ['P', 'G', 'Y', 'B'],
      ['P', 'G', 'Y', 'O'],
      ['P', 'G', 'Y', 'R'],
      ['P', 'O', 'B', 'G'],
      ['P', 'O', 'B', 'R'],
      ['P', 'O', 'B', 'Y'],
      ['P', 'O', 'G', 'B'],
      ['P', 'O', 'G', 'R'],
      ['P', 'O', 'G', 'Y'],
      ['P', 'O', 'R', 'B'],
      ['P', 'O', 'R', 'G'],
      ['P', 'O', 'R', 'Y'],
      ['P', 'O', 'Y', 'B'],
      ['P', 'O', 'Y', 'G'],
      ['P', 'O', 'Y', 'R'],
      ['P', 'R', 'B', 'G'],
      ['P', 'R', 'B', 'O'],
      ['P', 'R', 'B', 'Y'],
      ['P', 'R', 'G', 'B'],
      ['P', 'R', 'G', 'O'],
      ['P', 'R', 'G', 'Y'],
      ['P', 'R', 'O', 'B'],
      ['P', 'R', 'O', 'G'],
      ['P', 'R', 'O', 'Y'],
      ['P', 'R', 'Y', 'B'],
      ['P', 'R', 'Y', 'G'],
      ['P', 'R', 'Y', 'O'],
      ['P', 'Y', 'B', 'G'],
      ['P', 'Y', 'B', 'O'],
      ['P', 'Y', 'B', 'R'],
      ['P', 'Y', 'G', 'B'],
      ['P', 'Y', 'G', 'O'],
      ['P', 'Y', 'G', 'R'],
      ['P', 'Y', 'O', 'B'],
      ['P', 'Y', 'O', 'G'],
      ['P', 'Y', 'O', 'R'],
      ['P', 'Y', 'R', 'B'],
      ['P', 'Y', 'R', 'G'],
      ['P', 'Y', 'R', 'O']] : List Code),
    ∃ k : Nat, k ≤ 6 ∧ (loopRun (honest s) 7 none S0 []).1 = RunResult.solved s k :=
  List.forall_mem_cons.mpr ⟨⟨4, by decide, fst_of_eq rs40⟩,
  List.forall_mem_cons.mpr ⟨⟨3, by decide, fst_of_eq rs41⟩,
  List.forall_mem_cons.mpr ⟨⟨4, by decide, fst_of_eq rs42⟩,
  List.forall_mem_cons.mpr ⟨⟨3, by decide, fst_of_eq rs43⟩,
  List.forall_mem_cons.mpr ⟨⟨4, by decide, fst_of_eq rs44⟩,
  List.forall_mem_cons.mpr ⟨⟨3, by decide, fst_of_eq rs45⟩,
  List.forall_mem_cons.mpr ⟨⟨3, by decide, fst_of_eq rs46⟩,
  List.forall_mem_cons.mpr ⟨⟨3, by decide, fst_of_eq rs47⟩,
  List.forall_mem_cons.mpr ⟨⟨4, by decide, fst_of_eq rs48⟩,
  List.forall_mem_cons.mpr ⟨⟨4, by decide, fst_of_eq rs49⟩,
  tl5⟩⟩⟩⟩⟩⟩⟩⟩⟩⟩


lemma tl3 : ∀ s ∈ ([['B', 'R', 'Y', 'G'],
      ['B', 'R', 'Y', 'O'],
      ['B', 'R', 'Y', 'P'],
      ['B', 'R', 'P', 'G'],
      ['B', 'R', 'P', 'O'],
      ['B', 'R', 'P', 'Y'],
      ['B', 'Y', 'G', 'O'],
      ['B', 'Y', 'G', 'R'],
      ['B', 'Y', 'G', 'P'],
      ['B', 'Y', 'O', 'G'],
      ['B', 'Y', 'O', 'R'],
      ['B', 'Y', 'O', 'P'],
      ['B', 'Y', 'R', 'G'],
      ['B', 'Y', 'R', 'O'],
      ['B', 'Y', 'R', 'P'],
      ['B', 'Y', 'P', 'G'],
      ['B', 'Y', 'P', 'O'],
      ['B', 'Y', 'P', 'R'],
      ['B', 'P', 'G', 'O'],
      ['B', 'P', 'G', 'R'],
      ['B', 'P', 'G', 'Y'],
      ['B', 'P', 'O', 'G'],
      ['B', 'P', 'O', 'R'],
      ['B', 'P', 'O', 'Y'],
      ['B', 'P', 'R', 'G'],
      ['B', 'P', 'R', 'O'],
      ['B', 'P', 'R', 'Y'],
      ['B', 'P', 'Y', 'G'],
      ['B', 'P', 'Y', 'O'],
      ['B', 'P', 'Y', 'R'],
      ['G', 'B', 'O', 'R'],
      ['G', 'B', 'O', 'Y'],
      ['G', 'B', 'O', 'P'],
      ['G', 'B', 'R', 'O'],
      ['G', 'B', 'R', 'Y'],
      ['G', 'B', 'R', 'P'],
      ['G', 'B', 'Y', 'O'],
      ['G', 'B', 'Y', 'R'],
      ['G', 'B', 'Y', 'P'],
      ['G', 'B', 'P', 'O'],
      ['G', 'B', 'P', 'R'],
      ['G', 'B', 'P', 'Y'],
      ['G', 'O', 'B', 'R'],
      ['G', 'O', 'B', 'Y'],
      ['G', 'O', 'B', 'P'],
      ['G', 'O', 'R', 'B'],
      ['G', 'O', 'R', 'Y'],
      ['G', 'O', 'R', 'P'],
      ['G', 'O', 'Y', 'B'],
      ['G', 'O', 'Y', 'R'],
      ['G', 'O', 'Y', 'P'],
      ['G', 'O', 'P', 'B'],
      ['G', 'O', 'P', 'R'],
      ['G', 'O', 'P', 'Y'],
      ['G', 'R', 'B', 'O'],
      ['G', 'R', 'B', 'Y'],
      ['G', 'R', 'B', 'P'],
      ['G', 'R', 'O', 'B'],
      ['G', 'R', 'O', 'Y'],
      ['G', 'R', 'O', 'P'],
      ['G', 'R', 'Y', 'B'],
      ['G', 'R', 'Y', 'O'],
      ['G', 'R', 'Y', 'P'],
      ['G', 'R', 'P', 'B'],
      ['G', 'R', 'P', 'O'],
      ['G', 'R', 'P', 'Y'],
      ['G', 'Y', 'B', 'O'],
      ['G', 'Y', 'B', 'R'],
      ['G', 'Y', 'B', 'P'],
      ['G', 'Y', 'O', 'B'],
      ['G', 'Y', 'O', 'R'],
      ['G', 'Y', 'O', 'P'],
      ['G', 'Y', 'R', 'B'],
      ['G', 'Y', 'R', 'O'],
      ['G', 'Y', 'R', 'P'],
      ['G', 'Y', 'P', 'B'],
      ['G', 'Y', 'P', 'O'],
      ['G', 'Y', 'P', 'R'],
      ['G', 'P', 'B', 'O'],
      ['G', 'P', 'B', 'R'],
      ['G', 'P', 'B', 'Y'],
      ['G', 'P', 'O', 'B'],
      ['G', 'P', 'O', 'R'],
      ['G', 'P', 'O', 'Y'],
      ['G', 'P', 'R', 'B'],
      ['G', 'P', 'R', 'O'],
      ['G', 'P', 'R', 'Y'],
      ['G', 'P', 'Y', 'B'],
      ['G', 'P', 'Y', 'O'],
      ['G', 'P', 'Y', 'R'],
      ['O', 'B', 'G', 'R'],
      ['O', 'B', 'G', 'Y'],
      ['O', 'B', 'G', 'P'],
      ['O', 'B', 'R', 'G'],
      ['O', 'B', 'R', 'Y'],
      ['O', 'B', 'R', 'P'],
      ['O', 'B', 'Y', 'G'],
      ['O', 'B', 'Y', 'R'],
      ['O', 'B', 'Y', 'P'],
      ['O', 'B', 'P', 'G'],
      ['O', 'B', 'P', 'R'],
      ['O', 'B', 'P', 'Y'],
      ['O', 'G', 'B', 'R'],
      ['O', 'G', 'B', 'Y'],
      ['O', 'G', 'B', 'P'],
      ['O', 'G', 'R', 'B'],
      ['O', 'G', 'R', 'Y'],
      ['O', 'G', 'R', 'P'],
      ['O', 'G', 'Y', 'B'],
      ['O', 'G', 'Y', 'R'],
      ['O', 'G', 'Y', 'P'],
      ['O', 'G', 'P', 'B'],
      ['O', 'G', 'P', 'R'],
      ['O', 'G', 'P', 'Y'],
      ['O', 'R', 'B', 'G'],
      ['O', 'R', 'B', 'Y'],
      ['O', 'R', 'B', 'P'],
      ['O', 'R', 'G', 'B'],
      ['O', 'R', 'G', 'Y'],
      ['O', 'R', 'G', 'P'],
      ['O', 'R', 'Y', 'B'],
      ['O', 'R', 'Y', 'G'],
      ['O', 'R', 'Y', 'P'],
      ['O', 'R', 'P', 'B'],
      ['O', 'R', 'P', 'G'],
      ['O', 'R', 'P', 'Y'],
      ['O', 'Y', 'B', 'G'],
      ['O', 'Y', 'B', 'R'],
      ['O', 'Y', 'B', 'P'],
      ['O', 'Y', 'G', 'B'],
      ['O', 'Y', 'G', 'R'],
      ['O', 'Y', 'G', 'P'],
      ['O', 'Y', 'R', 'B'],
      ['O', 'Y', 'R', 'G'],
      ['O', 'Y', 'R', 'P'],
      ['O', 'Y', 'P', 'B'],
      ['O', 'Y', 'P', 'G'],
      ['O', 'Y', 'P', 'R'],
      ['O', 'P', 'B', 'G'],
      ['O', 'P', 'B', 'R'],
      ['O', 'P', 'B', 'Y'],
      ['O', 'P', 'G', 'B'],
      ['O', 'P', 'G', 'R'],
      ['O', 'P', 'G', 'Y'],
      ['O', 'P', 'R', 'B'],
      ['O', 'P', 'R', 'G'],
      ['O', 'P', 'R', 'Y'],
      ['O', 'P', 'Y', 'B'],
      ['O', 'P', 'Y', 'G'],
      ['O', 'P', 'Y', 'R'],
      ['R', 'B', 'G', 'O'],
      ['R', 'B', 'G', 'Y'],
      ['R', 'B', 'G', 'P'],
      ['R', 'B', 'O', 'G'],
      ['R', 'B', 'O', 'Y'],
      ['R', 'B', 'O', 'P'],
      ['R', 'B', 'Y', 'G'],
      ['R', 'B', 'Y', 'O'],
      ['R', 'B', 'Y', 'P'],
      ['R', 'B', 'P', 'G'],
      ['R', 'B', 'P', 'O'],
      ['R', 'B', 'P', 'Y'],
      ['R', 'G', 'B', 'O'],
      ['R', 'G', 'B', 'Y'],
      ['R', 'G', 'B', 'P'],
      ['R', 'G', 'O', 'B'],
      ['R', 'G', 'O', 'Y'],
      ['R', 'G', 'O', 'P'],
      ['R', 'G', 'Y', 'B'],
      ['R', 'G', 'Y', 'O'],
      ['R', 'G', 'Y', 'P'],
      ['R', 'G', 'P', 'B'],
      ['R', 'G', 'P', 'O'],
      ['R', 'G', 'P', 'Y'],
      ['R', 'O', 'B', 'G'],
      ['R', 'O', 'B', 'Y'],
      ['R', 'O', 'B', 'P'],
      ['R', 'O', 'G', 'B'],
      ['R', 'O', 'G', 'Y'],
      ['R', 'O', 'G', 'P'],
      ['R', 'O', 'Y', 'B'],
      ['R', 'O', 'Y', 'G'],
      ['R', 'O', 'Y', 'P'],
      ['R', 'O', 'P', 'B'],
      ['R', 'O', 'P', 'G'],
      ['R', 'O', 'P', 'Y'],
      ['R', 'Y', 'B', 'G'],
      ['R', 'Y', 'B', 'O'],
      ['R', 'Y', 'B', 'P'],
      ['R', 'Y', 'G', 'B'],
      ['R', 'Y', 'G', 'O'],
      ['R', 'Y', 'G', 'P'],
      ['R', 'Y', 'O', 'B'],
      ['R', 'Y', 'O', 'G'],
      ['R', 'Y', 'O', 'P'],
      ['R', 'Y', 'P', 'B'],
      ['R', 'Y', 'P', 'G'],
      ['R', 'Y', 'P', 'O'],
      ['R', 'P', 'B', 'G'],
      ['R', 'P', 'B', 'O'],
      ['R', 'P', 'B', 'Y'],
      ['R', 'P', 'G', 'B'],
      ['R', 'P', 'G', 'O'],
      ['R', 'P', 'G', 'Y'],
      ['R', 'P', 'O', 'B'],
      ['R', 'P', 'O', 'G'],
      ['R', 'P', 'O', 'Y'],
      ['R', 'P', 'Y', 'B'],
      ['R', 'P', 'Y', 'G'],
      ['R', 'P', 'Y', 'O'],
      ['Y', 'B', 'G', 'O'],
      ['Y', 'B', 'G', 'R'],
      ['Y', 'B', 'G', 'P'],
      ['Y', 'B', 'O', 'G'],
      ['Y', 'B', 'O', 'R'],
      ['Y', 'B', 'O', 'P'],
      ['Y', 'B', 'R', 'G'],
      ['Y', 'B', 'R', 'O'],
      ['Y', 'B', 'R', 'P'],
      ['Y', 'B', 'P', 'G'],
      ['Y', 'B', 'P', 'O'],
      ['Y', 'B', 'P', 'R'],
      ['Y', 'G', 'B', 'O'],
      ['Y', 'G', 'B', 'R'],
      ['Y', 'G', 'B', 'P'],
      ['Y', 'G', 'O', 'B'],
      ['Y', 'G', 'O', 'R'],
      ['Y', 'G', 'O', 'P'],
      ['Y', 'G', 'R', 'B'],
      ['Y', 'G', 'R', 'O'],
      ['Y', 'G', 'R', 'P'],
      ['Y', 'G', 'P', 'B'],
      ['Y', 'G', 'P', 'O'],
      ['Y', 'G', 'P', 'R'],
      ['Y', 'O', 'B', 'G'],
      ['Y', 'O', 'B', 'R'],
      ['Y', 'O', 'B', 'P'],
      ['Y', 'O', 'G', 'B'],
      ['Y', 'O', 'G', 'R'],
      ['Y', 'O', 'G', 'P'],
      ['Y', 'O', 'R', 'B'],
      ['Y', 'O', 'R', 'G'],
      ['Y', 'O', 'R', 'P'],
      ['Y', 'O', 'P', 'B'],
      ['Y', 'O', 'P', 'G'],
      ['Y', 'O', 'P', 'R'],
      ['Y', 'R', 'B', 'G'],
      ['Y', 'R', 'B', 'O'],
      ['Y', 'R', 'B', 'P'],
      ['Y', 'R', 'G', 'B'],
      ['Y', 'R', 'G', 'O'],
      ['Y', 'R', 'G', 'P'],
      ['Y', 'R', 'O', 'B'],
      ['Y', 'R', 'O', 'G'],
      ['Y', 'R', 'O', 'P'],
      ['Y', 'R', 'P', 'B'],
      ['Y', 'R', 'P', 'G'],
      ['Y', 'R', 'P', 'O'],
      ['Y', 'P', 'B', 'G'],
      ['Y', 'P', 'B', 'O'],
      ['Y', 'P', 'B', 'R'],
      ['Y', 'P', 'G', 'B'],
      ['Y', 'P', 'G', 'O'],
      ['Y', 'P', 'G', 'R'],
      ['Y', 'P', 'O', 'B'],
      ['Y', 'P', 'O', 'G'],
      ['Y', 'P', 'O', 'R'],
      ['Y', 'P', 'R', 'B'],
      ['Y', 'P', 'R', 'G'],
      ['Y', 'P', 'R', 'O'],
      ['P', 'B', 'G', 'O'],
      ['P', 'B', 'G', 'R'],
      ['P', 'B', 'G', 'Y'],
      ['P', 'B', 'O', 'G'],
      ['P', 'B', 'O', 'R'],
      ['P', 'B', 'O', 'Y'],
      ['P', 'B', 'R', 'G'],
      ['P', 'B', 'R', 'O'],
      ['P', 'B', 'R', 'Y'],
      ['P', 'B', 'Y', 'G'],
      ['P', 'B', 'Y', 'O'],
      ['P', 'B', 'Y', 'R'],
      ['P', 'G', 'B', 'O'],
      ['P', 'G', 'B', 'R'],
      ['P', 'G', 'B', 'Y'],
      ['P', 'G', 'O', 'B'],
      ['P', 'G', 'O', 'R'],
      ['P', 'G', 'O', 'Y'],
      ['P', 'G', 'R', 'B'],
      ['P', 'G', 'R', 'O'],
      ['P', 'G', 'R', 'Y'],
      ['P', 'G', 'Y', 'B'],
      ['P', 'G', 'Y', 'O'],
      ['P', 'G', 'Y', 'R'],
      ['P', 'O', 'B', 'G'],
      ['P', 'O', 'B', 'R'],
      ['P', 'O', 'B', 'Y'],
      ['P', 'O', 'G', 'B'],
      ['P', 'O', 'G', 'R'],
      ['P', 'O', 'G', 'Y'],
      ['P', 'O', 'R', 'B'],
      ['P', 'O', 'R', 'G'],
      ['P', 'O', 'R', 'Y'],
      ['P', 'O', 'Y', 'B'],
      ['P', 'O', 'Y', 'G'],
      ['P', 'O', 'Y', 'R'],
      ['P', 'R', 'B', 'G'],
      ['P', 'R', 'B', 'O'],
      ['P', 'R', 'B', 'Y'],
      ['P', 'R', 'G', 'B'],
      ['P', 'R', 'G', 'O'],
      ['P', 'R', 'G', 'Y'],
      ['P', 'R', 'O', 'B'],
      ['P', 'R', 'O', 'G'],
      ['P', 'R', 'O', 'Y'],
      ['P', 'R', 'Y', 'B'],
      ['P', 'R', 'Y', 'G'],
      ['P', 'R', 'Y', 'O'],
      ['P', 'Y', 'B', 'G'],
      ['P', 'Y', 'B', 'O'],
      ['P', 'Y', 'B', 'R'],
      ['P', 'Y', 'G', 'B'],
      ['P', 'Y', 'G', 'O'],
      ['P', 'Y', 'G', 'R'],
      ['P', 'Y', 'O', 'B'],
      ['P', 'Y', 'O', 'G'],
      ['P', 'Y', 'O', 'R'],
      ['P', 'Y', 'R', 'B'],
      ['P', 'Y', 'R', 'G'],
      ['P', 'Y', 'R', 'O']] : List Code),
    ∃ k : Nat, k ≤ 6 ∧ (loopRun (honest s) 7 none S0 []).1 = RunResult.solved s k :=
  List.forall_mem_cons.mpr ⟨⟨4, by decide, fst_of_eq rs30⟩,
  List.forall_mem_cons.mpr ⟨⟨3, by decide, fst_of_eq rs31⟩,
  List.forall_mem_cons.mpr ⟨⟨3, by decide, fst_of_eq rs32⟩,
  List.forall_mem_cons.mpr ⟨⟨4, by decide, fst_of_eq rs33⟩,
  List.forall_mem_cons.mpr ⟨⟨4, by decide, fst_of_eq rs34⟩,
  List.forall_mem_cons.mpr ⟨⟨4, by decide, fst_of_eq rs35⟩,
  List.forall_mem_cons.mpr ⟨⟨4, by decide, fst_of_eq rs36⟩,
  List.forall_mem_cons.mpr ⟨⟨3, by decide, fst_of_eq rs37⟩,
  List.forall_mem_cons.mpr ⟨⟨3, by decide, fst_of_eq rs38⟩,
  List.forall_mem_cons.mpr ⟨⟨4, by decide, fst_of_eq rs39⟩,
  tl4⟩⟩⟩⟩⟩⟩⟩⟩⟩⟩


lemma tl2 : ∀ s ∈ ([['B', 'O', 'Y', 'P'],
      ['B', 'O', 'P', 'G'],
      ['B', 'O', 'P', 'R'],
      ['B', 'O', 'P', 'Y'],
      ['B', 'R', 'G', 'O'],
      ['B', 'R', 'G', 'Y'],
      ['B', 'R', 'G', 'P'],
      ['B', 'R', 'O', 'G'],
      ['B', 'R', 'O', 'Y'],
      ['B', 'R', 'O', 'P'],
      ['B', 'R', 'Y', 'G'],
      ['B', 'R', 'Y', 'O'],
      ['B', 'R', 'Y', 'P'],
      ['B', 'R', 'P', 'G'],
      ['B', 'R', 'P', 'O'],
      ['B', 'R', 'P', 'Y'],
      ['B', 'Y', 'G', 'O'],
      ['B', 'Y', 'G', 'R'],
      ['B', 'Y', 'G', 'P'],
      ['B', 'Y', 'O', 'G'],
      ['B', 'Y', 'O', 'R'],
      ['B', 'Y', 'O', 'P'],
      ['B', 'Y', 'R', 'G'],
      ['B', 'Y', 'R', 'O'],
      ['B', 'Y', 'R', 'P'],
      ['B', 'Y', 'P', 'G'],
      ['B', 'Y', 'P', 'O'],
      ['B', 'Y', 'P', 'R'],
      ['B', 'P', 'G', 'O'],
      ['B', 'P', 'G', 'R'],
      ['B', 'P', 'G', 'Y'],
      ['B', 'P', 'O', 'G'],
      ['B', 'P', 'O', 'R'],
      ['B', 'P', 'O', 'Y'],
      ['B', 'P', 'R', 'G'],
      ['B', 'P', 'R', 'O'],
      ['B', 'P', 'R', 'Y'],
      ['B', 'P', 'Y', 'G'],
      ['B', 'P', 'Y', 'O'],
      ['B', 'P', 'Y', 'R'],
      ['G', 'B', 'O', 'R'],
      ['G', 'B', 'O', 'Y'],
      ['G', 'B', 'O', 'P'],
      ['G', 'B', 'R', 'O'],
      ['G', 'B', 'R', 'Y'],
      ['G', 'B', 'R', 'P'],
      ['G', 'B', 'Y', 'O'],
      ['G', 'B', 'Y', 'R'],
      ['G', 'B', 'Y', 'P'],
      ['G', 'B', 'P', 'O'],
      ['G', 'B', 'P', 'R'],
      ['G', 'B', 'P', 'Y'],
      ['G', 'O', 'B', 'R'],
      ['G', 'O', 'B', 'Y'],
      ['G', 'O', 'B', 'P'],
      ['G', 'O', 'R', 'B'],
      ['G', 'O', 'R', 'Y'],
      ['G', 'O', 'R', 'P'],
      ['G', 'O', 'Y', 'B'],
      ['G', 'O', 'Y', 'R'],
      ['G', 'O', 'Y', 'P'],
      ['G', 'O', 'P', 'B'],
      ['G', 'O', 'P', 'R'],
      ['G', 'O', 'P', 'Y'],
      ['G', 'R', 'B', 'O'],
      ['G', 'R', 'B', 'Y'],
      ['G', 'R', 'B', 'P'],
      ['G', 'R', 'O', 'B'],
      ['G', 'R', 'O', 'Y'],
      ['G', 'R', 'O', 'P'],
      ['G', 'R', 'Y', 'B'],
      ['G', 'R', 'Y', 'O'],
      ['G', 'R', 'Y', 'P'],
      ['G', 'R', 'P', 'B'],
      ['G', 'R', 'P', 'O'],
      ['G', 'R', 'P', 'Y'],
      ['G', 'Y', 'B', 'O'],
      ['G', 'Y', 'B', 'R'],
      ['G', 'Y', 'B', 'P'],
      ['G', 'Y', 'O', 'B'],
      ['G', 'Y', 'O', 'R'],
      ['G', 'Y', 'O', 'P'],
      ['G', 'Y', 'R', 'B'],
      ['G', 'Y', 'R', 'O'],
      ['G', 'Y', 'R', 'P'],
      ['G', 'Y', 'P', 'B'],
      ['G', 'Y', 'P', 'O'],
      ['G', 'Y', 'P', 'R'],
      ['G', 'P', 'B', 'O'],
      ['G', 'P', 'B', 'R'],
      ['G', 'P', 'B', 'Y'],
      ['G', 'P', 'O', 'B'],
      ['G', 'P', 'O', 'R'],
      ['G', 'P', 'O', 'Y'],
      ['G', 'P', 'R', 'B'],
      ['G', 'P', 'R', 'O'],
      ['G', 'P', 'R', 'Y'],
      ['G', 'P', 'Y', 'B'],
      ['G', 'P', 'Y', 'O'],
      ['G', 'P', 'Y', 'R'],
      ['O', 'B', 'G', 'R'],
      ['O', 'B', 'G', 'Y'],
      ['O', 'B', 'G', 'P'],
      ['O', 'B', 'R', 'G'],
      ['O', 'B', 'R', 'Y'],
      ['O', 'B', 'R', 'P'],
      ['O', 'B', 'Y', 'G'],
      ['O', 'B', 'Y', 'R'],
      ['O', 'B', 'Y', 'P'],
      ['O', 'B', 'P', 'G'],
      ['O', 'B', 'P', 'R'],
      ['O', 'B', 'P', 'Y'],
      ['O', 'G', 'B', 'R'],
      ['O', 'G', 'B', 'Y'],
      ['O', 'G', 'B', 'P'],
      ['O', 'G', 'R', 'B'],
      ['O', 'G', 'R', 'Y'],
      ['O', 'G', 'R', 'P'],
      ['O', 'G', 'Y', 'B'],
      ['O', 'G', 'Y', 'R'],
      ['O', 'G', 'Y', 'P'],
      ['O', 'G', 'P', 'B'],
      ['O', 'G', 'P', 'R'],
      ['O', 'G', 'P', 'Y'],
      ['O', 'R', 'B', 'G'],
      ['O', 'R', 'B', 'Y'],
      ['O', 'R', 'B', 'P'],
      ['O', 'R', 'G', 'B'],
      ['O', 'R', 'G', 'Y'],
      ['O', 'R', 'G', 'P'],
      ['O', 'R', 'Y', 'B'],
      ['O', 'R', 'Y', 'G'],
      ['O', 'R', 'Y', 'P'],
      ['O', 'R', 'P', 'B'],
      ['O', 'R', 'P', 'G'],
      ['O', 'R', 'P', 'Y'],
      ['O', 'Y', 'B', 'G'],
      ['O', 'Y', 'B', 'R'],
      ['O', 'Y', 'B', 'P'],
      ['O', 'Y', 'G', 'B'],
      ['O', 'Y', 'G', 'R'],
      ['O', 'Y', 'G', 'P'],
      ['O', 'Y', 'R', 'B'],
      ['O', 'Y', 'R', 'G'],
      ['O', 'Y', 'R', 'P'],
      ['O', 'Y', 'P', 'B'],
      ['O', 'Y', 'P', 'G'],
      ['O', 'Y', 'P', 'R'],
      ['O', 'P', 'B', 'G'],
      ['O', 'P', 'B', 'R'],
      ['O', 'P', 'B', 'Y'],
      ['O', 'P', 'G', 'B'],
      ['O', 'P', 'G', 'R'],
      ['O', 'P', 'G', 'Y'],
      ['O', 'P', 'R', 'B'],
      ['O', 'P', 'R', 'G'],
      ['O', 'P', 'R', 'Y'],
      ['O', 'P', 'Y', 'B'],
      ['O', 'P', 'Y', 'G'],
      ['O', 'P', 'Y', 'R'],
      ['R', 'B', 'G', 'O'],
      ['R', 'B', 'G', 'Y'],
      ['R', 'B', 'G', 'P'],
      ['R', 'B', 'O', 'G'],
      ['R', 'B', 'O', 'Y'],
      ['R', 'B', 'O', 'P'],
      ['R', 'B', 'Y', 'G'],
      ['R', 'B', 'Y', 'O'],
      ['R', 'B', 'Y', 'P'],
      ['R', 'B', 'P', 'G'],
      ['R', 'B', 'P', 'O'],
      ['R', 'B', 'P', 'Y'],
      ['R', 'G', 'B', 'O'],
      ['R', 'G', 'B', 'Y'],
      ['R', 'G', 'B', 'P'],
      ['R', 'G', 'O', 'B'],
      ['R', 'G', 'O', 'Y'],
      ['R', 'G', 'O', 'P'],
      ['R', 'G', 'Y', 'B'],
      ['R', 'G', 'Y', 'O'],
      ['R', 'G', 'Y', 'P'],
      ['R', 'G', 'P', 'B'],
      ['R', 'G', 'P', 'O'],
      ['R', 'G', 'P', 'Y'],
      ['R', 'O', 'B', 'G'],
      ['R', 'O', 'B', 'Y'],
      ['R', 'O', 'B', 'P'],
      ['R', 'O', 'G', 'B'],
      ['R', 'O', 'G', 'Y'],
      ['R', 'O', 'G', 'P'],
      ['R', 'O', 'Y', 'B'],
      ['R', 'O', 'Y', 'G'],
      ['R', 'O', 'Y', 'P'],
      ['R', 'O', 'P', 'B'],
      ['R', 'O', 'P', 'G'],
      ['R', 'O', 'P', 'Y'],
      ['R', 'Y', 'B', 'G'],
      ['R', 'Y', 'B', 'O'],
      ['R', 'Y', 'B', 'P'],
      ['R', 'Y', 'G', 'B'],
      ['R', 'Y', 'G', 'O'],
      ['R', 'Y', 'G', 'P'],
      ['R', 'Y', 'O', 'B'],
      ['R', 'Y', 'O', 'G'],
      ['R', 'Y', 'O', 'P'],
      ['R', 'Y', 'P', 'B'],
      ['R', 'Y', 'P', 'G'],
      ['R', 'Y', 'P', 'O'],
      ['R', 'P', 'B', 'G'],
      ['R', 'P', 'B', 'O'],
      ['R', 'P', 'B', 'Y'],
      ['R', 'P', 'G', 'B'],
      ['R', 'P', 'G', 'O'],
      ['R', 'P', 'G', 'Y'],
      ['R', 'P', 'O', 'B'],
      ['R', 'P', 'O', 'G'],
      ['R', 'P', 'O', 'Y'],
      ['R', 'P', 'Y', 'B'],
      ['R', 'P', 'Y', 'G'],
      ['R', 'P', 'Y', 'O'],
      ['Y', 'B', 'G', 'O'],
      ['Y', 'B', 'G', 'R'],
      ['Y', 'B', 'G', 'P'],
      ['Y', 'B', 'O', 'G'],
      ['Y', 'B', 'O', 'R'],
      ['Y', 'B', 'O', 'P'],
      ['Y', 'B', 'R', 'G'],
      ['Y', 'B', 'R', 'O'],
      ['Y', 'B', 'R', 'P'],
      ['Y', 'B', 'P', 'G'],
      ['Y', 'B', 'P', 'O'],
      ['Y', 'B', 'P', 'R'],
      ['Y', 'G', 'B', 'O'],
      ['Y', 'G', 'B', 'R'],
      ['Y', 'G', 'B', 'P'],
      ['Y', 'G', 'O', 'B'],
      ['Y', 'G', 'O', 'R'],
      ['Y', 'G', 'O', 'P'],
      ['Y', 'G', 'R', 'B'],
      ['Y', 'G', 'R', 'O'],
      ['Y', 'G', 'R', 'P'],
      ['Y', 'G', 'P', 'B'],
      ['Y', 'G', 'P', 'O'],
      ['Y', 'G', 'P', 'R'],
      ['Y', 'O', 'B', 'G'],
      ['Y', 'O', 'B', 'R'],
      ['Y', 'O', 'B', 'P'],
      ['Y', 'O', 'G', 'B'],
      ['Y', 'O', 'G', 'R'],
      ['Y', 'O', 'G', 'P'],
      ['Y', 'O', 'R', 'B'],
      ['Y', 'O', 'R', 'G'],
      ['Y', 'O', 'R', 'P'],
      ['Y', 'O', 'P', 'B'],
      ['Y', 'O', 'P', 'G'],
      ['Y', 'O', 'P', 'R'],
      ['Y', 'R', 'B', 'G'],
      ['Y', 'R', 'B', 'O'],
      ['Y', 'R', 'B', 'P'],
      ['Y', 'R', 'G', 'B'],
      ['Y', 'R', 'G', 'O'],
      ['Y', 'R', 'G', 'P'],
      ['Y', 'R', 'O', 'B'],
      ['Y', 'R', 'O', 'G'],
      ['Y', 'R', 'O', 'P'],
      ['Y', 'R', 'P', 'B'],
      ['Y', 'R', 'P', 'G'],
      ['Y', 'R', 'P', 'O'],
      ['Y', 'P', 'B', 'G'],
      ['Y', 'P', 'B', 'O'],
      ['Y', 'P', 'B', 'R'],
      ['Y', 'P', 'G', 'B'],
      ['Y', 'P', 'G', 'O'],
      ['Y', 'P', 'G', 'R'],
      ['Y', 'P', 'O', 'B'],
      ['Y', 'P', 'O', 'G'],
      ['Y', 'P', 'O', 'R'],
      ['Y', 'P', 'R', 'B'],
      ['Y', 'P', 'R', 'G'],
      ['Y', 'P', 'R', 'O'],
      ['P', 'B', 'G', 'O'],
      ['P', 'B', 'G', 'R'],
      ['P', 'B', 'G', 'Y'],
      ['P', 'B', 'O', 'G'],
      ['P', 'B', 'O', 'R'],
      ['P', 'B', 'O', 'Y'],
      ['P', 'B', 'R', 'G'],
      ['P', 'B', 'R', 'O'],
      ['P', 'B', 'R', 'Y'],
      ['P', 'B', 'Y', 'G'],
      ['P', 'B', 'Y', 'O'],
      ['P', 'B', 'Y', 'R'],
      ['P', 'G', 'B', 'O'],
      ['P', 'G', 'B', 'R'],
      ['P', 'G', 'B', 'Y'],
      ['P', 'G', 'O', 'B'],
      ['P', 'G', 'O', 'R'],
      ['P', 'G', 'O', 'Y'],
      ['P', 'G', 'R', 'B'],
      ['P', 'G', 'R', 'O'],
      ['P', 'G', 'R', 'Y'],
      ['P', 'G', 'Y', 'B'],
      ['P', 'G', 'Y', 'O'],
      ['P', 'G', 'Y', 'R'],
      ['P', 'O', 'B', 'G'],
      ['P', 'O', 'B', 'R'],
      ['P', 'O', 'B', 'Y'],
      ['P', 'O', 'G', 'B'],
      ['P', 'O', 'G', 'R'],
      ['P', 'O', 'G', 'Y'],
      ['P', 'O', 'R', 'B'],
      ['P', 'O', 'R', 'G'],
      ['P', 'O', 'R', 'Y'],
      ['P', 'O', 'Y', 'B'],
      ['P', 'O', 'Y', 'G'],
      ['P', 'O', 'Y', 'R'],
      ['P', 'R', 'B', 'G'],
      ['P', 'R', 'B', 'O'],
      ['P', 'R', 'B', 'Y'],
      ['P', 'R', 'G', 'B'],
      ['P', 'R', 'G', 'O'],
      ['P', 'R', 'G', 'Y'],
      ['P', 'R', 'O', 'B'],
      ['P', 'R', 'O', 'G'],
      ['P', 'R', 'O', 'Y'],
      ['P', 'R', 'Y', 'B'],
      ['P', 'R', 'Y', 'G'],
      ['P', 'R', 'Y', 'O'],
      ['P', 'Y', 'B', 'G'],
      ['P', 'Y', 'B', 'O'],
      ['P', 'Y', 'B', 'R'],
      ['P', 'Y', 'G', 'B'],
      ['P', 'Y', 'G', 'O'],
      ['P', 'Y', 'G', 'R'],
      ['P', 'Y', 'O', 'B'],
      ['P', 'Y', 'O', 'G'],
      ['P', 'Y', 'O', 'R'],
      ['P', 'Y', 'R', 'B'],
      ['P', 'Y', 'R', 'G'],
      ['P', 'Y', 'R', 'O']] : List Code),
    ∃ k : Nat, k ≤ 6 ∧ (loopRun (honest s) 7 none S0 []).1 = RunResult.solved s k :=
  List.forall_mem_cons.mpr ⟨⟨2, by decide, fst_of_eq rs20⟩,
  List.forall_mem_cons.mpr ⟨⟨4, by decide, fst_of_eq rs21⟩,
  List.forall_mem_cons.mpr ⟨⟨3, by decide, fst_of_eq rs22⟩,
  List.forall_mem_cons.mpr ⟨⟨3, by decide, fst_of_eq rs23⟩,
  List.forall_mem_cons.mpr ⟨⟨3, by decide, fst_of_eq rs24⟩,
  List.forall_mem_cons.mpr ⟨⟨4, by decide, fst_of_eq rs25⟩,
  List.forall_mem_cons.mpr ⟨⟨3, by decide, fst_of_eq rs26⟩,
  List.forall_mem_cons.mpr ⟨⟨4, by decide, fst_of_eq rs27⟩,
  List.forall_mem_cons.mpr ⟨⟨3, by decide, fst_of_eq rs28⟩,
  List.forall_mem_cons.mpr ⟨⟨4, by decide, fst_of_eq rs29⟩,
  tl3⟩⟩⟩⟩⟩⟩⟩⟩⟩⟩


lemma tl1 : ∀ s ∈ ([['B', 'G', 'P', 'R'],
      ['B', 'G', 'P', 'Y'],
      ['B', 'O', 'G', 'R'],
      ['B', 'O', 'G', 'Y'],
      ['B', 'O', 'G', 'P'],
      ['B', 'O', 'R', 'G'],
      ['B', 'O', 'R', 'Y'],
      ['B', 'O', 'R', 'P'],
      ['B', 'O', 'Y', 'G'],
      ['B', 'O', 'Y', 'R'],
      ['B', 'O', 'Y', 'P'],
      ['B', 'O', 'P', 'G'],
      ['B', 'O', 'P', 'R'],
      ['B', 'O', 'P', 'Y'],
      ['B', 'R', 'G', 'O'],
      ['B', 'R', 'G', 'Y'],
      ['B', 'R', 'G', 'P'],
      ['B', 'R', 'O', 'G'],
      ['B', 'R', 'O', 'Y'],
      ['B', 'R', 'O', 'P'],
      ['B', 'R', 'Y', 'G'],
      ['B', 'R', 'Y', 'O'],
      ['B', 'R', 'Y', 'P'],
      ['B', 'R', 'P', 'G'],
      ['B', 'R', 'P', 'O'],
      ['B', 'R', 'P', 'Y'],
      ['B', 'Y', 'G', 'O'],
      ['B', 'Y', 'G', 'R'],
      ['B', 'Y', 'G', 'P'],
      ['B', 'Y', 'O', 'G'],
      ['B', 'Y', 'O', 'R'],
      ['B', 'Y', 'O', 'P'],
      ['B', 'Y', 'R', 'G'],
      ['B', 'Y', 'R', 'O'],
      ['B', 'Y', 'R', 'P'],
      ['B', 'Y', 'P', 'G'],
      ['B', 'Y', 'P', 'O'],
      ['B', 'Y', 'P', 'R'],
      ['B', 'P', 'G', 'O'],
      ['B', 'P', 'G', 'R'],
      ['B', 'P', 'G', 'Y'],
      ['B', 'P', 'O', 'G'],
      ['B', 'P', 'O', 'R'],
      ['B', 'P', 'O', 'Y'],
      ['B', 'P', 'R', 'G'],
      ['B', 'P', 'R', 'O'],
      ['B', 'P', 'R', 'Y'],
      ['B', 'P', 'Y', 'G'],
      ['B', 'P', 'Y', 'O'],
      ['B', 'P', 'Y', 'R'],
      ['G', 'B', 'O', 'R'],
      ['G', 'B', 'O', 'Y'],
      ['G', 'B', 'O', 'P'],
      ['G', 'B', 'R', 'O'],
      ['G', 'B', 'R', 'Y'],
      ['G', 'B', 'R', 'P'],
      ['G', 'B', 'Y', 'O'],
      ['G', 'B', 'Y', 'R'],
      ['G', 'B', 'Y', 'P'],
      ['G', 'B', 'P', 'O'],
      ['G', 'B', 'P', 'R'],
      ['G', 'B', 'P', 'Y'],
      ['G', 'O', 'B', 'R'],
      ['G', 'O', 'B', 'Y'],
      ['G', 'O', 'B', 'P'],
      ['G', 'O', 'R', 'B'],
      ['G', 'O', 'R', 'Y'],
      ['G', 'O', 'R', 'P'],
      ['G', 'O', 'Y', 'B'],
      ['G', 'O', 'Y', 'R'],
      ['G', 'O', 'Y', 'P'],
      ['G', 'O', 'P', 'B'],
      ['G', 'O', 'P', 'R'],
      ['G', 'O', 'P', 'Y'],
      ['G', 'R', 'B', 'O'],
      ['G', 'R', 'B', 'Y'],
      ['G', 'R', 'B', 'P'],
      ['G', 'R', 'O', 'B'],
      ['G', 'R', 'O', 'Y'],
      ['G', 'R', 'O', 'P'],
      ['G', 'R', 'Y', 'B'],
      ['G', 'R', 'Y', 'O'],
      ['G', 'R', 'Y', 'P'],
      ['G', 'R', 'P', 'B'],
      ['G', 'R', 'P', 'O'],
      ['G', 'R', 'P', 'Y'],
      ['G', 'Y', 'B', 'O'],
      ['G', 'Y', 'B', 'R'],
      ['G', 'Y', 'B', 'P'],
      ['G', 'Y', 'O', 'B'],
      ['G', 'Y', 'O', 'R'],
      ['G', 'Y', 'O', 'P'],
      ['G', 'Y', 'R', 'B'],
      ['G', 'Y', 'R', 'O'],
      ['G', 'Y', 'R', 'P'],
      ['G', 'Y', 'P', 'B'],
      ['G', 'Y', 'P', 'O'],
      ['G', 'Y', 'P', 'R'],
      ['G', 'P', 'B', 'O'],
      ['G', 'P', 'B', 'R'],
      ['G', 'P', 'B', 'Y'],
      ['G', 'P', 'O', 'B'],
      ['G', 'P', 'O', 'R'],
      ['G', 'P', 'O', 'Y'],
      ['G', 'P', 'R', 'B'],
      ['G', 'P', 'R', 'O'],
      ['G', 'P', 'R', 'Y'],
      ['G', 'P', 'Y', 'B'],
      ['G', 'P', 'Y', 'O'],
      ['G', 'P', 'Y', 'R'],
      ['O', 'B', 'G', 'R'],
      ['O', 'B', 'G', 'Y'],
      ['O', 'B', 'G', 'P'],
      ['O', 'B', 'R', 'G'],
      ['O', 'B', 'R', 'Y'],
      ['O', 'B', 'R', 'P'],
      ['O', 'B', 'Y', 'G'],
      ['O', 'B', 'Y', 'R'],
      ['O', 'B', 'Y', 'P'],
      ['O', 'B', 'P', 'G'],
      ['O', 'B', 'P', 'R'],
      ['O', 'B', 'P', 'Y'],
      ['O', 'G', 'B', 'R'],
      ['O', 'G', 'B', 'Y'],
      ['O', 'G', 'B', 'P'],
      ['O', 'G', 'R', 'B'],
      ['O', 'G', 'R', 'Y'],
      ['O', 'G', 'R', 'P'],
      ['O', 'G', 'Y', 'B'],
      ['O', 'G', 'Y', 'R'],
      ['O', 'G', 'Y', 'P'],
      ['O', 'G', 'P', 'B'],
      ['O', 'G', 'P', 'R'],
      ['O', 'G', 'P', 'Y'],
      ['O', 'R', 'B', 'G'],
      ['O', 'R', 'B', 'Y'],
      ['O', 'R', 'B', 'P'],
      ['O', 'R', 'G', 'B'],
      ['O', 'R', 'G', 'Y'],
      ['O', 'R', 'G', 'P'],
      ['O', 'R', 'Y', 'B'],
      ['O', 'R', 'Y', 'G'],
      ['O', 'R', 'Y', 'P'],
      ['O', 'R', 'P', 'B'],
      ['O', 'R', 'P', 'G'],
      ['O', 'R', 'P', 'Y'],
      ['O', 'Y', 'B', 'G'],
      ['O', 'Y', 'B', 'R'],
      ['O', 'Y', 'B', 'P'],
      ['O', 'Y', 'G', 'B'],
      ['O', 'Y', 'G', 'R'],
      ['O', 'Y', 'G', 'P'],
      ['O', 'Y', 'R', 'B'],
      ['O', 'Y', 'R', 'G'],
      ['O', 'Y', 'R', 'P'],
      ['O', 'Y', 'P', 'B'],
      ['O', 'Y', 'P', 'G'],
      ['O', 'Y', 'P', 'R'],
      ['O', 'P', 'B', 'G'],
      ['O', 'P', 'B', 'R'],
      ['O', 'P', 'B', 'Y'],
      ['O', 'P', 'G', 'B'],
      ['O', 'P', 'G', 'R'],
      ['O', 'P', 'G', 'Y'],
      ['O', 'P', 'R', 'B'],
      ['O', 'P', 'R', 'G'],
      ['O', 'P', 'R', 'Y'],
      ['O', 'P', 'Y', 'B'],
      ['O', 'P', 'Y', 'G'],
      ['O', 'P', 'Y', 'R'],
      ['R', 'B', 'G', 'O'],
      ['R', 'B', 'G', 'Y'],
      ['R', 'B', 'G', 'P'],
      ['R', 'B', 'O', 'G'],
      ['R', 'B', 'O', 'Y'],
      ['R', 'B', 'O', 'P'],
      ['R', 'B', 'Y', 'G'],
      ['R', 'B', 'Y', 'O'],
      ['R', 'B', 'Y', 'P'],
      ['R', 'B', 'P', 'G'],
      ['R', 'B', 'P', 'O'],
      ['R', 'B', 'P', 'Y'],
      ['R', 'G', 'B', 'O'],
      ['R', 'G', 'B', 'Y'],
      ['R', 'G', 'B', 'P'],
      ['R', 'G', 'O', 'B'],
      ['R', 'G', 'O', 'Y'],
      ['R', 'G', 'O', 'P'],
      ['R', 'G', 'Y', 'B'],
      ['R', 'G', 'Y', 'O'],
      ['R', 'G', 'Y', 'P'],
      ['R', 'G', 'P', 'B'],
      ['R', 'G', 'P', 'O'],
      ['R', 'G', 'P', 'Y'],
      ['R', 'O', 'B', 'G'],
      ['R', 'O', 'B', 'Y'],
      ['R', 'O', 'B', 'P'],
      ['R', 'O', 'G', 'B'],
      ['R', 'O', 'G', 'Y'],
      ['R', 'O', 'G', 'P'],
      ['R', 'O', 'Y', 'B'],
      ['R', 'O', 'Y', 'G'],
      ['R', 'O', 'Y', 'P'],
      ['R', 'O', 'P', 'B'],
      ['R', 'O', 'P', 'G'],
      ['R', 'O', 'P', 'Y'],
      ['R', 'Y', 'B', 'G'],
      ['R', 'Y', 'B', 'O'],
      ['R', 'Y', 'B', 'P'],
      ['R', 'Y', 'G', 'B'],
      ['R', 'Y', 'G', 'O'],
      ['R', 'Y', 'G', 'P'],
      ['R', 'Y', 'O', 'B'],
      ['R', 'Y', 'O', 'G'],
      ['R', 'Y', 'O', 'P'],
      ['R', 'Y', 'P', 'B'],
      ['R', 'Y', 'P', 'G'],
      ['R', 'Y', 'P', 'O'],
      ['R', 'P', 'B', 'G'],
      ['R', 'P', 'B', 'O'],
      ['R', 'P', 'B', 'Y'],
      ['R', 'P', 'G', 'B'],
      ['R', 'P', 'G', 'O'],
      ['R', 'P', 'G', 'Y'],
      ['R', 'P', 'O', 'B'],
      ['R', 'P', 'O', 'G'],
      ['R', 'P', 'O', 'Y'],
      ['R', 'P', 'Y', 'B'],
      ['R', 'P', 'Y', 'G'],
      ['R', 'P', 'Y', 'O'],
      ['Y', 'B', 'G', 'O'],
      ['Y', 'B', 'G', 'R'],
      ['Y', 'B', 'G', 'P'],
      ['Y', 'B', 'O', 'G'],
      ['Y', 'B', 'O', 'R'],
      ['Y', 'B', 'O', 'P'],
      ['Y', 'B', 'R', 'G'],
      ['Y', 'B', 'R', 'O'],
      ['Y', 'B', 'R', 'P'],
      ['Y', 'B', 'P', 'G'],
      ['Y', 'B', 'P', 'O'],
      ['Y', 'B', 'P', 'R'],
      ['Y', 'G', 'B', 'O'],
      ['Y', 'G', 'B', 'R'],
      ['Y', 'G', 'B', 'P'],
      ['Y', 'G', 'O', 'B'],
      ['Y', 'G', 'O', 'R'],
      ['Y', 'G', 'O', 'P'],
      ['Y', 'G', 'R', 'B'],
      ['Y', 'G', 'R', 'O'],
      ['Y', 'G', 'R', 'P'],
      ['Y', 'G', 'P', 'B'],
      ['Y', 'G', 'P', 'O'],
      ['Y', 'G', 'P', 'R'],
      ['Y', 'O', 'B', 'G'],
      ['Y', 'O', 'B', 'R'],
      ['Y', 'O', 'B', 'P'],
      ['Y', 'O', 'G', 'B'],
      ['Y', 'O', 'G', 'R'],
      ['Y', 'O', 'G', 'P'],
      ['Y', 'O', 'R', 'B'],
      ['Y', 'O', 'R', 'G'],
      ['Y', 'O', 'R', 'P'],
      ['Y', 'O', 'P', 'B'],
      ['Y', 'O', 'P', 'G'],
      ['Y', 'O', 'P', 'R'],
      ['Y', 'R', 'B', 'G'],
      ['Y', 'R', 'B', 'O'],
      ['Y', 'R', 'B', 'P'],
      ['Y', 'R', 'G', 'B'],
      ['Y', 'R', 'G', 'O'],
      ['Y', 'R', 'G', 'P'],
      ['Y', 'R', 'O', 'B'],
      ['Y', 'R', 'O', 'G'],
      ['Y', 'R', 'O', 'P'],
      ['Y', 'R', 'P', 'B'],
      ['Y', 'R', 'P', 'G'],
      ['Y', 'R', 'P', 'O'],
      ['Y', 'P', 'B', 'G'],
      ['Y', 'P', 'B', 'O'],
      ['Y', 'P', 'B', 'R'],
      ['Y', 'P', 'G', 'B'],
      ['Y', 'P', 'G', 'O'],
      ['Y', 'P', 'G', 'R'],
      ['Y', 'P', 'O', 'B'],
      ['Y', 'P', 'O', 'G'],
      ['Y', 'P', 'O', 'R'],
      ['Y', 'P', 'R', 'B'],
      ['Y', 'P', 'R', 'G'],
      ['Y', 'P', 'R', 'O'],
      ['P', 'B', 'G', 'O'],
      ['P', 'B', 'G', 'R'],
      ['P', 'B', 'G', 'Y'],
      ['P', 'B', 'O', 'G'],
      ['P', 'B', 'O', 'R'],
      ['P', 'B', 'O', 'Y'],
      ['P', 'B', 'R', 'G'],
      ['P', 'B', 'R', 'O'],
      ['P', 'B', 'R', 'Y'],
      ['P', 'B', 'Y', 'G'],
      ['P', 'B', 'Y', 'O'],
      ['P', 'B', 'Y', 'R'],
      ['P', 'G', 'B', 'O'],
      ['P', 'G', 'B', 'R'],
      ['P', 'G', 'B', 'Y'],
      ['P', 'G', 'O', 'B'],
      ['P', 'G', 'O', 'R'],
      ['P', 'G', 'O', 'Y'],
      ['P', 'G', 'R', 'B'],
      ['P', 'G', 'R', 'O'],
      ['P', 'G', 'R', 'Y'],
      ['P', 'G', 'Y', 'B'],
      ['P', 'G', 'Y', 'O'],
      ['P', 'G', 'Y', 'R'],
      ['P', 'O', 'B', 'G'],
      ['P', 'O', 'B', 'R'],
      ['P', 'O', 'B', 'Y'],
      ['P', 'O', 'G', 'B'],
      ['P', 'O', 'G', 'R'],
      ['P', 'O', 'G', 'Y'],
      ['P', 'O', 'R', 'B'],
      ['P', 'O', 'R', 'G'],
      ['P', 'O', 'R', 'Y'],
      ['P', 'O', 'Y', 'B'],
      ['P', 'O', 'Y', 'G'],
      ['P', 'O', 'Y', 'R'],
      ['P', 'R', 'B', 'G'],
      ['P', 'R', 'B', 'O'],
      ['P', 'R', 'B', 'Y'],
      ['P', 'R', 'G', 'B'],
      ['P', 'R', 'G', 'O'],
      ['P', 'R', 'G', 'Y'],
      ['P', 'R', 'O', 'B'],
      ['P', 'R', 'O', 'G'],
      ['P', 'R', 'O', 'Y'],
      ['P', 'R', 'Y', 'B'],
      ['P', 'R', 'Y', 'G'],
      ['P', 'R', 'Y', 'O'],
      ['P', 'Y', 'B', 'G'],
      ['P', 'Y', 'B', 'O'],
      ['P', 'Y', 'B', 'R'],
      ['P', 'Y', 'G', 'B'],
      ['P', 'Y', 'G', 'O'],
      ['P', 'Y', 'G', 'R'],
      ['P', 'Y', 'O', 'B'],
      ['P', 'Y', 'O', 'G'],
      ['P', 'Y', 'O', 'R'],
      ['P', 'Y', 'R', 'B'],
      ['P', 'Y', 'R', 'G'],
      ['P', 'Y', 'R', 'O']] : List Code),
    ∃ k : Nat, k ≤ 6 ∧ (loopRun (honest s) 7 none S0 []).1 = RunResult.solved s k :=
  List.forall_mem_cons.mpr ⟨⟨3, by decide, fst_of_eq rs10⟩,
  List.forall_mem_cons.mpr ⟨⟨3, by decide, fst_of_eq rs11⟩,
  List.forall_mem_cons.mpr ⟨⟨3, by decide, fst_of_eq rs12⟩,
  List.forall_mem_cons.mpr ⟨⟨3, by decide, fst_of_eq rs13⟩,
  List.forall_mem_cons.mpr ⟨⟨3, by decide, fst_of_eq rs14⟩,
  List.forall_mem_cons.mpr ⟨⟨2, by decide, fst_of_eq rs15⟩,
  List.forall_mem_cons.mpr ⟨⟨2, by decide, fst_of_eq rs16⟩,
  List.forall_mem_cons.mpr ⟨⟨4, by decide, fst_of_eq rs17⟩,
  List.forall_mem_cons.mpr ⟨⟨3, by decide, fst_of_eq rs18⟩,
  List.forall_mem_cons.mpr ⟨⟨3, by decide, fst_of_eq rs19⟩,
  tl2⟩⟩⟩⟩⟩⟩⟩⟩⟩⟩


lemma tl0 : ∀ s ∈ S0,
    ∃ k : Nat, k ≤ 6 ∧ (loopRun (honest s) 7 none S0 []).1 = RunResult.solved s k :=
  List.forall_mem_cons.mpr ⟨⟨1, by decide, fst_of_eq rs0⟩,
  List.forall_mem_cons.mpr ⟨⟨2, by decide, fst_of_eq rs1⟩,
  List.forall_mem_cons.mpr ⟨⟨3, by decide, fst_of_eq rs2⟩,
  List.forall_mem_cons.mpr ⟨⟨2, by decide, fst_of_eq rs3⟩,
  List.forall_mem_cons.mpr ⟨⟨2, by decide, fst_of_eq rs4⟩,
  List.forall_mem_cons.mpr ⟨⟨3, by decide, fst_of_eq rs5⟩,
  List.forall_mem_cons.mpr ⟨⟨4, by decide, fst_of_eq rs6⟩,
  List.forall_mem_cons.mpr ⟨⟨3, by decide, fst_of_eq rs7⟩,
  List.forall_mem_cons.mpr ⟨⟨2, by decide, fst_of_eq rs8⟩,
  List.forall_mem_cons.mpr ⟨⟨3, by decide, fst_of_eq rs9⟩,
  tl1⟩⟩⟩⟩⟩⟩⟩⟩⟩⟩

/-- C2: for every secret code among the 360 valid codes, running the
solve loop against an honest collaborator (one answering
`calculateScore(secret, guess)`) invokes the `solved` delegate with the
answer equal to the secret and at most 6 attempts; the `error` delegate
is never invoked. -/
theorem C2_honest_convergence :
    ∀ s ∈ initializeSet, ∃ k : Nat, k ≤ 6 ∧
      (loopRun (honest s) 7 none initializeSet []).1 = RunResult.solved s k := by
  rw [initializeSet_eq_S0]
  exact tl0

/-- Witness: the claim applies to the concrete secret `BGOR`. -/
theorem C2_honest_convergence_witness :
    (['B', 'G', 'O', 'R'] : Code) ∈ initializeSet ∧ ∃ k : Nat, k ≤ 6 ∧
      (loopRun (honest ['B', 'G', 'O', 'R']) 7 none initializeSet []).1 =
        RunResult.solved ['B', 'G', 'O', 'R'] k :=
  ⟨by decide, C2_honest_convergence ['B', 'G', 'O', 'R'] (by decide)⟩

def specBlack (a b : Code) : Nat :=
  ((List.range 4).filter (fun i => a.get? i == b.get? i)).length

def specWhite (a b : Code) : Nat :=
  ((List.range 4).filter (fun i => (a.get? i != b.get? i) &&
    decide (a.get? i ∈ ((List.range 4).filter
      (fun j => a.get? j != b.get? j)).map (fun j => b.get? j)))).length

/-- C1: on well-formed codes, `calculateScore(a, b)` returns black equal
to the number of exactly-matching positions and white equal to the number
of non-matching positions of `a` whose color occurs among `b`'s colors at
`b`'s own non-matching positions. -/
theorem C1_score_characterization (a b : Code)
    (ha : WellFormed a) (hb : WellFormed b) :
    calculateScore a b = ⟨(specWhite a b : Int), (specBlack a b : Int)⟩ := by
  obtain ⟨haL, haN, haC⟩ := ha
  rw [calculateScore_filter_form a b haN haL]
  have hrange : combinationIndices = List.range 4 := rfl
  have hblack : specBlack a b = (matchingIdx a b).length := by
    rw [specBlack, matchingIdx, hrange]
    rfl
  have hwhite : specWhite a b =
      (((nonMatching a b).map (fun i => a.get? i)).filter
        (fun v => decide (v ∈ (nonMatching a b).map (fun i => b.get? i)))).length := by
    rw [specWhite]
    rw [← List.countP_eq_length_filter, ← List.countP_eq_length_filter,
      List.countP_map]
    have hnm : nonMatching a b =
        (List.range 4).filter (fun j => a.get? j != b.get? j) := by
      rw [nonMatching, hrange]
    rw [← hnm]
    rw [show ((List.range 4).countP (fun i => (a.get? i != b.get? i) &&
        decide (a.get? i ∈ (nonMatching a b).map (fun j => b.get? j)))) =
      ((List.range 4).filter (fun j => a.get? j != b.get? j)).countP
        (fun i => decide (a.get? i ∈ (nonMatching a b).map (fun j => b.get? j)))
      from ?_]
    · rw [← hnm]
      rfl
    · rw [List.countP_filter]
      apply List.countP_congr
      intro i _
      constructor
      · intro h
        simp only [Bool.and_eq_true] at h ⊢
        exact ⟨h.2, h.1⟩
      · intro h
        simp only [Bool.and_eq_true] at h ⊢
        exact ⟨h.2, h.1⟩
  have hfin : (4 : Int) - ((nonMatching a b).length : Int) =
      ((matchingIdx a b).length : Int) := by
    have hsplit := countP_filter_split (fun _ => true) (matchPred a b)
      combinationIndices
    simp only [List.countP_true] at hsplit
    have hm : (matchingIdx a b).length =
        (combinationIndices.filter (matchPred a b)).length := rfl
    have hn : (nonMatching a b).length =
        (combinationIndices.filter (fun i => !(matchPred a b i))).length := by
      rw [nonMatching_eq_filter_not]
    have hlen : combinationIndices.length = 4 := rfl
    omega
  rw [hblack, hwhite, Score.mk.injEq, haL]
  exact ⟨rfl, hfin⟩

/-- Witness: C1 at the concrete pair `BGOR`, `GBRY`. -/
theorem C1_score_characterization_witness :
    WellFormed (['B', 'G', 'O', 'R'] : Code) ∧
    WellFormed (['G', 'B', 'R', 'Y'] : Code) ∧
    calculateScore ['B', 'G', 'O', 'R'] ['G', 'B', 'R', 'Y'] =
      ⟨(specWhite ['B', 'G', 'O', 'R'] ['G', 'B', 'R', 'Y'] : Int),
        (specBlack ['B', 'G', 'O', 'R'] ['G', 'B', 'R', 'Y'] : Int)⟩ :=
  ⟨by decide, by decide,
    C1_score_characterization _ _ (by decide) (by decide)⟩

/-- C5: on well-formed codes, scoring is symmetric in its two arguments. -/
theorem C5_score_symmetric (a b : Code) (ha : WellFormed a) (hb : WellFormed b) :
    calculateScore a b = calculateScore b a :=
  calculateScore_comm a b ha hb

/-- Witness: C5 at the concrete pair `BGOR`, `GBRY`. -/
theorem C5_score_symmetric_witness :
    WellFormed (['B', 'G', 'O', 'R'] : Code) ∧
    WellFormed (['G', 'B', 'R', 'Y'] : Code) ∧
    calculateScore ['B', 'G', 'O', 'R'] ['G', 'B', 'R', 'Y'] =
      calculateScore ['G', 'B', 'R', 'Y'] ['B', 'G', 'O', 'R'] :=
  ⟨by decide, by decide, C5_score_symmetric _ _ (by decide) (by decide)⟩

/-- C4: `parePossibilities` is exactly the order-preserving filter of the
candidates whose score against the guess equals the observed score: it is
a sublist of the input, keeps precisely the matching candidates, and
never grows. -/
theorem C4_pare_exact_filter (S : List Code) (g : Code) (sc : Score) :
    parePossibilities S g sc =
      S.filter (fun c => decide (calculateScore c g = sc)) ∧
    (parePossibilities S g sc).Sublist S ∧
    (∀ c, c ∈ parePossibilities S g sc ↔ c ∈ S ∧ calculateScore c g = sc) ∧
    (parePossibilities S g sc).length ≤ S.length := by
  refine ⟨?_, parePossibilities_sublist S g sc, mem_parePossibilities S g sc,
    (parePossibilities_sublist S g sc).length_le⟩
  rw [parePossibilities]
  apply List.filter_congr
  intro c _
  rw [isValidScore, scoreEquals_eq_decide]


/-- Digit-value of the first digit character immediately followed by `t`
(the first match of the regex `/(\d)t/`), if any. -/
def scanDigitBefore (t : Char) : List Char → Option Char
  | d :: c :: rest =>
    if d.isDigit && c == t then some d else scanDigitBefore t (c :: rest)
  | _ => none

/-- `parseScore(score)` from `src/lib.ts`: lowercase the string, find the
first digit before a `w` and the first digit before a `b`; a missing
channel parses as 0. -/
def parseScore (score : String) : Score :=
  let chars := score.toList.map Char.toLower
  { white := match scanDigitBefore 'w' chars with
      | some d => ((d.toNat - 48 : Nat) : Int)
      | none => 0,
    black := match scanDigitBefore 'b' chars with
      | some d => ((d.toNat - 48 : Nat) : Int)
      | none => 0 }

/-- `printScore(score)` from `src/lib.ts`: append `<white>W` and
`<black>B`, omitting a channel whose count is zero (JS falsiness of 0). -/
def printScore (score : Score) : String :=
  (if score.white != 0 then toString score.white ++ "W" else "") ++
  (if score.black != 0 then toString score.black ++ "B" else "")

example : printScore ⟨2, 1⟩ = "2W1B" := by decide
example : printScore ⟨0, 3⟩ = "3B" := by decide
example : printScore ⟨0, 0⟩ = "" := by decide
example : parseScore "2W1B" = ⟨2, 1⟩ := by decide
example : parseScore "" = ⟨0, 0⟩ := by decide

/-- C7: printing a valid score and parsing it back is the identity; an
omitted zero channel parses back as zero. -/
theorem C7_roundtrip (s : Score) (hw : 0 ≤ s.white) (hb : 0 ≤ s.black)
    (hsum : s.white + s.black ≤ 4) :
    parseScore (printScore s) = s := by
  obtain ⟨wI, bI⟩ := s
  simp only at hw hb hsum
  obtain ⟨w, rfl⟩ := Int.eq_ofNat_of_zero_le hw
  obtain ⟨b, rfl⟩ := Int.eq_ofNat_of_zero_le hb
  have hs : w + b ≤ 4 := by exact_mod_cast hsum
  have hw4 : w ≤ 4 := by omega
  have hb4 : b ≤ 4 := by omega
  interval_cases w <;> interval_cases b <;> decide

/-- Witness: C7 at the concrete score 2 white, 1 black. -/
theorem C7_roundtrip_witness :
    (0 : Int) ≤ (⟨2, 1⟩ : Score).white ∧ (0 : Int) ≤ (⟨2, 1⟩ : Score).black ∧
    (⟨2, 1⟩ : Score).white + (⟨2, 1⟩ : Score).black ≤ 4 ∧
    parseScore (printScore ⟨2, 1⟩) = ⟨2, 1⟩ :=
  ⟨by decide, by decide, by decide, C7_roundtrip ⟨2, 1⟩ (by decide) (by decide) (by decide)⟩

/-- The big-endian digit encoding: strictly increasing along the
generation order of `permutateString`. -/
def renc : Code → Nat
  | [c1, c2, c3, c4] =>
    512 * colorIdx c1 + 64 * colorIdx c2 + 8 * colorIdx c3 + colorIdx c4
  | _ => 0

/-- Strict ascent of a list from a starting value, as one boolean pass. -/
def rchainFrom (l : List Nat) : Nat → Bool :=
  l.rec (fun _ => true) (fun b _ ih x => decide (x < b) && ih b)

/-- Strict ascent of a list of naturals, as one boolean pass. -/
def rchainLt : List Nat → Bool
  | [] => true
  | x :: t => rchainFrom t x

lemma chain_of_rchainFrom (t : List Nat) :
    ∀ x, rchainFrom t x = true → List.Chain (fun a b : Nat => a < b) x t := by
  induction t with
  | nil => intro x _; exact List.Chain.nil
  | cons b t ih =>
    intro x h
    have hs : rchainFrom (b :: t) x = (decide (x < b) && rchainFrom t b) := rfl
    rw [hs, Bool.and_eq_true] at h
    exact List.Chain.cons (of_decide_eq_true h.1) (ih b h.2)

lemma pairwise_of_rchainLt (l : List Nat) (h : rchainLt l = true) :
    l.Pairwise (fun a b : Nat => a < b) := by
  cases l with
  | nil => exact List.Pairwise.nil
  | cons x t =>
    exact List.chain_iff_pairwise.mp (chain_of_rchainFrom t x h)

lemma contains_false_of_not_mem {α : Type} [BEq α] [LawfulBEq α]
    (l : List α) (c : α) (h : c ∉ l) : l.contains c = false := by
  rw [Bool.eq_false_iff]
  intro hc
  exact h (List.mem_of_elem_eq_true hc)

lemma mem_foldl_append {α : Type} (L : List (List α)) (acc : List α) (x : α) :
    x ∈ L.foldl (· ++ ·) acc ↔ x ∈ acc ∨ ∃ l ∈ L, x ∈ l := by
  induction L generalizing acc with
  | nil => simp
  | cons h t ih =>
    rw [List.foldl_cons, ih]
    simp only [List.mem_append, List.mem_cons]
    constructor
    · rintro ((hx | hx) | ⟨l, hl, hx⟩)
      · exact Or.inl hx
      · exact Or.inr ⟨h, Or.inl rfl, hx⟩
      · exact Or.inr ⟨l, Or.inr hl, hx⟩
    · rintro (hx | ⟨l, hl | hl, hx⟩)
      · exact Or.inl (Or.inl hx)
      · exact Or.inl (Or.inr (hl ▸ hx))
      · exact Or.inr ⟨l, hl, hx⟩

/-- Completeness of `permutateString`: every extension of `current` by
distinct fresh in-range indices is generated. -/
lemma permutateString_complete (ds : List Nat) : ∀ cur : List Nat,
    (∀ d ∈ ds, d ∈ List.range colors.length) →
    (∀ d ∈ ds, d ∉ cur) →
    ds.Nodup →
    ((cur ++ ds).map (fun x => colors.getD x ' ')) ∈
      permutateString (List.range colors.length) cur ds.length := by
  induction ds with
  | nil =>
    intro cur _ _ _
    rw [List.append_nil]
    exact List.mem_singleton.mpr rfl
  | cons d rest ih =>
    intro cur hset hcur hnd
    show ((cur ++ d :: rest).map (fun x => colors.getD x ' ')) ∈
      (((List.range colors.length).filter (fun i => !cur.contains i)).map
        (fun i => permutateString (List.range colors.length) (cur ++ [i])
          rest.length)).foldl (· ++ ·) []
    rw [mem_foldl_append]
    right
    refine ⟨permutateString (List.range colors.length) (cur ++ [d]) rest.length,
      ?_, ?_⟩
    · apply List.mem_map_of_mem
      apply List.mem_filter.mpr
      constructor
      · exact hset d (List.mem_cons_self _ _)
      · show (!(cur.contains d)) = true
        rw [contains_false_of_not_mem cur d (hcur d (List.mem_cons_self _ _))]
        rfl
    · have heq : cur ++ d :: rest = (cur ++ [d]) ++ rest := by simp
      rw [heq]
      apply ih (cur ++ [d])
      · intro e he
        exact hset e (List.mem_cons_of_mem _ he)
      · intro e he hmem
        rcases List.mem_append.mp hmem with h1 | h1
        · exact hcur e (List.mem_cons_of_mem _ he) h1
        · rw [List.mem_singleton] at h1
          subst h1
          exact (List.nodup_cons.mp hnd).1 he
      · exact (List.nodup_cons.mp hnd).2

/-- Every well-formed code is generated by `initializeSet`. -/
lemma initializeSet_complete (c : Code) (hc : WellFormed c) :
    c ∈ initializeSet := by
  obtain ⟨hL, hN, hC⟩ := hc
  obtain ⟨c1, c2, c3, c4, rfl⟩ := length_eq_four c hL
  have h1 : c1 ∈ colors := hC c1 (by simp)
  have h2 : c2 ∈ colors := hC c2 (by simp)
  have h3 : c3 ∈ colors := hC c3 (by simp)
  have h4 : c4 ∈ colors := hC c4 (by simp)
  have hb1 := colorIdx_le_five c1 h1
  have hb2 := colorIdx_le_five c2 h2
  have hb3 := colorIdx_le_five c3 h3
  have hb4 := colorIdx_le_five c4 h4
  have hgetD : ∀ x ∈ colors, colors.getD (colorIdx x) ' ' = x := by decide
  simp only [List.nodup_cons, List.mem_cons, List.not_mem_nil, or_false,
    List.nodup_nil, and_true, not_or] at hN
  obtain ⟨⟨hn12, hn13, hn14⟩, ⟨hn23, hn24⟩, hn34, -⟩ := hN
  have hrange : ∀ d ∈ [colorIdx c1, colorIdx c2, colorIdx c3, colorIdx c4],
      d ∈ List.range colors.length := by
    intro d hd
    simp only [List.mem_cons, List.not_mem_nil, or_false] at hd
    have hcl : colors.length = 6 := rfl
    rcases hd with rfl | rfl | rfl | rfl <;>
      (apply List.mem_range.mpr; omega)
  have hfresh : ∀ d ∈ [colorIdx c1, colorIdx c2, colorIdx c3, colorIdx c4],
      d ∉ ([] : List Nat) := fun d _ => List.not_mem_nil d
  have hnd : ([colorIdx c1, colorIdx c2, colorIdx c3, colorIdx c4]).Nodup := by
    refine List.nodup_cons.mpr ⟨?_, List.nodup_cons.mpr ⟨?_,
      List.nodup_cons.mpr ⟨?_, List.nodup_singleton _⟩⟩⟩
    · intro hmem
      rcases List.mem_cons.mp hmem with h | hmem2
      · exact hn12 (colorIdx_inj c1 h1 c2 h2 h)
      rcases List.mem_cons.mp hmem2 with h | hmem3
      · exact hn13 (colorIdx_inj c1 h1 c3 h3 h)
      rcases List.mem_cons.mp hmem3 with h | hmem4
      · exact hn14 (colorIdx_inj c1 h1 c4 h4 h)
      · exact List.not_mem_nil _ hmem4
    · intro hmem
      rcases List.mem_cons.mp hmem with h | hmem2
      · exact hn23 (colorIdx_inj c2 h2 c3 h3 h)
      rcases List.mem_cons.mp hmem2 with h | hmem3
      · exact hn24 (colorIdx_inj c2 h2 c4 h4 h)
      · exact List.not_mem_nil _ hmem3
    · intro hmem
      rcases List.mem_cons.mp hmem with h | hmem2
      · exact hn34 (colorIdx_inj c3 h3 c4 h4 h)
      · exact List.not_mem_nil _ hmem2
  have hmem := permutateString_complete
    [colorIdx c1, colorIdx c2, colorIdx c3, colorIdx c4] [] hrange hfresh hnd
  have hmap : (([] ++ [colorIdx c1, colorIdx c2, colorIdx c3, colorIdx c4]).map
      (fun x => colors.getD x ' ')) = [c1, c2, c3, c4] := by
    simp only [List.nil_append, List.map_cons, List.map_nil]
    rw [hgetD c1 h1, hgetD c2 h2, hgetD c3 h3, hgetD c4 h4]
  rw [hmap] at hmem
  exact hmem

/-- C6: `initializeSet` returns 360 pairwise-distinct codes, each four
distinct colors of the alphabet, and every such code occurs; the result
is a fixed list. -/
theorem C6_initializeSet_complete :
    initializeSet.length = 360 ∧ initializeSet.Nodup ∧
    (∀ c ∈ initializeSet, WellFormed c) ∧
    (∀ c : Code, WellFormed c → c ∈ initializeSet) := by
  have hwfall : rall (fun c => decide (WellFormed c)) initializeSet = true := by rfl
  have hchain : rchainLt (rmap renc initializeSet) = true := by rfl
  refine ⟨by decide, ?_, ?_, fun c hc => initializeSet_complete c hc⟩
  · have hpw := pairwise_of_rchainLt _ hchain
    rw [rmap_eq] at hpw
    exact List.Nodup.of_map renc (hpw.imp (fun h => Nat.ne_of_lt h))
  · intro c hc
    exact of_decide_eq_true (forall_of_rall _ _ hwfall c hc)

/-- C8 (amended): a contradictory score (black ≠ 4, no candidate
matches) does not trigger the error callback in its own iteration.  The
empty next-guess returned on the emptied pool is falsy, so the following
iteration re-defaults it to the hard-coded first guess and requests that
guess's score from the collaborator; when that score does not have four
blacks, the `possibilities.length <= 1` check — performed before
filtering, on the previous iteration's pool — fires the error callback
then. -/
theorem C8_delayed_error (guesser : Code → Score) (g : Code)
    (poss used : List Code)
    (hgne : g ≠ [])
    (hb1 : ((guesser g).black == (combinationLength : Int)) = false)
    (hpare : parePossibilities poss g (guesser g) = [])
    (hlen : ¬ (poss.length ≤ 1))
    (hmem : used.contains g = false)
    (hb2 : ((guesser defaultFirstGuess).black == (combinationLength : Int)) = false) :
    loopRun guesser 1 (some g) poss used = (RunResult.fuelOut, [g]) ∧
    loopRun guesser 2 (some g) poss used =
      (RunResult.fatal, [g, defaultFirstGuess]) := by
  have hfng : findNextGuess [] (used ++ [g]) = [] := rfl
  constructor
  · have h1 : loopRun guesser 1 (some g) poss used =
        ((loopRun guesser 0
            (some (findNextGuess (parePossibilities poss g (guesser g)) (used ++ [g])))
            (parePossibilities poss g (guesser g)) (used ++ [g])).1,
          g :: (loopRun guesser 0
            (some (findNextGuess (parePossibilities poss g (guesser g)) (used ++ [g])))
            (parePossibilities poss g (guesser g)) (used ++ [g])).2) :=
      loopRun_go guesser 0 g poss used hb1 hlen hmem hgne
    rw [h1]
    rfl
  · have h2 : loopRun guesser 2 (some g) poss used =
        ((loopRun guesser 1
            (some (findNextGuess (parePossibilities poss g (guesser g)) (used ++ [g])))
            (parePossibilities poss g (guesser g)) (used ++ [g])).1,
          g :: (loopRun guesser 1
            (some (findNextGuess (parePossibilities poss g (guesser g)) (used ++ [g])))
            (parePossibilities poss g (guesser g)) (used ++ [g])).2) :=
      loopRun_go guesser 1 g poss used hb1 hlen hmem hgne
    rw [h2, hpare, hfng]
    have h3 : loopRun guesser 1 (some ([] : Code)) [] (used ++ [g]) =
        (RunResult.fatal, [defaultFirstGuess]) :=
      loopRun_empty_fatal guesser 0 [] (used ++ [g]) hb2 (by simp)
    rw [h3]

/-- Witness: C8 with a collaborator answering 0 white 0 black on a
two-candidate pool. -/
theorem C8_delayed_error_witness :
    loopRun (fun _ => (⟨0, 0⟩ : Score)) 1 (some ['G', 'O', 'R', 'Y'])
      [['B', 'G', 'O', 'Y'], ['B', 'G', 'Y', 'O']] [] =
      (RunResult.fuelOut, [['G', 'O', 'R', 'Y']]) ∧
    loopRun (fun _ => (⟨0, 0⟩ : Score)) 2 (some ['G', 'O', 'R', 'Y'])
      [['B', 'G', 'O', 'Y'], ['B', 'G', 'Y', 'O']] [] =
      (RunResult.fatal, [['G', 'O', 'R', 'Y'], defaultFirstGuess]) :=
  C8_delayed_error (fun _ => (⟨0, 0⟩ : Score)) ['G', 'O', 'R', 'Y']
    [['B', 'G', 'O', 'Y'], ['B', 'G', 'Y', 'O']] [] (by decide) (by decide)
    (by decide) (by decide) (by decide) (by decide)

/-- Counterexample to C8 as stated: the follow-on guess after a
contradictory score is the re-defaulted first guess, not the empty
string, and a collaborator answering four blacks to it makes the loop
report solved — the error callback never fires at all. -/
theorem C8_counterexample :
    parePossibilities [['B', 'G', 'O', 'Y'], ['B', 'G', 'Y', 'O']] ['G', 'O', 'R', 'Y']
      ((fun c => if c = (['B', 'G', 'O', 'R'] : Code) then (⟨0, 4⟩ : Score)
        else ⟨0, 0⟩) (['G', 'O', 'R', 'Y'] : Code)) = [] ∧
    loopRun (fun c => if c = (['B', 'G', 'O', 'R'] : Code) then (⟨0, 4⟩ : Score)
        else ⟨0, 0⟩) 2 (some ['G', 'O', 'R', 'Y'])
      [['B', 'G', 'O', 'Y'], ['B', 'G', 'Y', 'O']] [] =
      (RunResult.solved ['B', 'G', 'O', 'R'] 2,
        [['G', 'O', 'R', 'Y'], ['B', 'G', 'O', 'R']]) := by
  constructor
  · decide
  · decide


/-- `selectPre` from the `Number.MAX_VALUE` accumulator, on a non-empty
candidate list whose worst counts are all below `MAX_VALUE`: the result is
the first candidate attaining the minimum count. -/
lemma selectPre_min_char (l : List (Code × Nat)) (hne : l ≠ [])
    (hlt : ∀ qw ∈ l, ((qw.2 : Int)) < numberMaxValue) :
    ∃ i : Nat, ∃ pw : Code × Nat, l.get? i = some pw ∧
      (selectPre l (numberMaxValue, [])).2 = pw.1 ∧
      (∀ qw ∈ l, pw.2 ≤ qw.2) ∧
      (∀ j, j < i → ∀ qw : Code × Nat, l.get? j = some qw → pw.2 < qw.2) := by
  rcases selectPre_char l (numberMaxValue, []) with ⟨heq, hall⟩ |
    ⟨i, pw, hget, heq, hlt2, hmin, hfirst⟩
  · cases l with
    | nil => exact absurd rfl hne
    | cons qw t =>
      have h1 := hall qw (List.mem_cons_self _ _)
      have h2 := hlt qw (List.mem_cons_self _ _)
      exact absurd h1 (not_le.mpr h2)
  · refine ⟨i, pw, hget, by rw [heq], ?_, ?_⟩
    · intro qw hq
      rcases hmin qw hq with h | h
      · exact_mod_cast h
      · exact absurd h (not_le.mpr (hlt qw hq))
    · intro j hj qw hget'
      exact_mod_cast hfirst j hj qw hget'

lemma maxScoreCount_le_length (remaining : List Code) (p : Code) :
    maxScoreCount remaining p ≤ remaining.length := by
  rw [maxScoreCount_eq_maxCount]
  calc maxCount (scoreRow remaining p) ≤ (scoreRow remaining p).length :=
      maxCount_le_length _
    _ = remaining.length := List.length_map remaining _

/-- C3 (amended): when `remaining` has at least two elements, its length
is below `Number.MAX_VALUE`, and at least one element is unused,
`findNextGuess` returns the first unused element, in iteration order,
minimizing the worst-case score-bucket count `maxScoreCount`. -/
theorem C3_first_minimizer (remaining usedCodes : List Code)
    (h2 : 2 ≤ remaining.length)
    (hlen : ((remaining.length : Nat) : Int) < numberMaxValue)
    (hne : remaining.filter (fun p => !(usedCodes.contains p)) ≠ []) :
    ∃ i : Nat,
      (remaining.filter (fun p => !(usedCodes.contains p))).get? i =
        some (findNextGuess remaining usedCodes) ∧
      (∀ q ∈ remaining.filter (fun p => !(usedCodes.contains p)),
        maxScoreCount remaining (findNextGuess remaining usedCodes) ≤
          maxScoreCount remaining q) ∧
      (∀ j, j < i → ∀ q,
        (remaining.filter (fun p => !(usedCodes.contains p))).get? j = some q →
          maxScoreCount remaining (findNextGuess remaining usedCodes) <
            maxScoreCount remaining q) := by
  have hF : findNextGuess remaining usedCodes =
      (selectPre ((remaining.filter (fun p => !(usedCodes.contains p))).map
        (fun p => (p, maxScoreCount remaining p))) (numberMaxValue, [])).2 := by
    unfold findNextGuess
    rw [show (remaining.length == 1) = false from by
      simp only [beq_eq_false_iff_ne]
      omega]
    simp only [Bool.false_eq_true, if_false]
    rw [selectLoop_eq_selectPre]
  have hlnn : (remaining.filter (fun p => !(usedCodes.contains p))).map
      (fun p => (p, maxScoreCount remaining p)) ≠ [] := by
    intro hcon
    exact hne (List.map_eq_nil.mp hcon)
  have hbound : ∀ qw ∈ (remaining.filter (fun p => !(usedCodes.contains p))).map
      (fun p => (p, maxScoreCount remaining p)), ((qw.2 : Int)) < numberMaxValue := by
    intro qw hq
    obtain ⟨q, hqmem, rfl⟩ := List.mem_map.mp hq
    have h1 : maxScoreCount remaining q ≤ remaining.length :=
      maxScoreCount_le_length remaining q
    have h2 : ((maxScoreCount remaining q : Nat) : Int) ≤
        ((remaining.length : Nat) : Int) := by exact_mod_cast h1
    exact lt_of_le_of_lt h2 hlen
  obtain ⟨i, pw, hget, heq, hmin, hfirst⟩ := selectPre_min_char _ hlnn hbound
  rw [List.get?_map] at hget
  obtain ⟨q, hq, hpw⟩ := Option.map_eq_some'.mp hget
  refine ⟨i, ?_, ?_, ?_⟩
  · rw [hF, heq, ← hpw]
    exact hq
  · intro q' hq'
    have hmem := List.mem_map_of_mem (fun p => (p, maxScoreCount remaining p)) hq'
    have := hmin _ hmem
    rw [hF, heq, ← hpw]
    simp only [← hpw] at this
    exact this
  · intro j hj q' hget'
    have hget2 : ((remaining.filter (fun p => !(usedCodes.contains p))).map
        (fun p => (p, maxScoreCount remaining p))).get? j =
        some (q', maxScoreCount remaining q') := by
      rw [List.get?_map, hget']
      rfl
    have := hfirst j hj _ hget2
    rw [hF, heq, ← hpw]
    simp only [← hpw] at this
    exact this

/-- Counterexample to C3 as stated: with both elements already used,
`findNextGuess` returns the empty string, which is not an element of
`remaining` at all. -/
theorem C3_counterexample :
    findNextGuess [['B', 'G', 'O', 'R'], ['G', 'B', 'R', 'Y']]
        [['B', 'G', 'O', 'R'], ['G', 'B', 'R', 'Y']] = [] ∧
    (([] : Code) ∉ ([['B', 'G', 'O', 'R'], ['G', 'B', 'R', 'Y']] : List Code)) ∧
    2 ≤ ([['B', 'G', 'O', 'R'], ['G', 'B', 'R', 'Y']] : List Code).length := by
  refine ⟨rfl, by decide, by decide⟩

/-- Witness: C3 on a two-element pool with nothing used. -/
theorem C3_first_minimizer_witness :
    (∃ i : Nat,
      (([['B', 'G', 'O', 'Y'], ['B', 'G', 'Y', 'O']] : List Code).filter
        (fun p => !(([] : List Code).contains p))).get? i =
        some (findNextGuess [['B', 'G', 'O', 'Y'], ['B', 'G', 'Y', 'O']] []) ∧
      (∀ q ∈ ([['B', 'G', 'O', 'Y'], ['B', 'G', 'Y', 'O']] : List Code).filter
          (fun p => !(([] : List Code).contains p)),
        maxScoreCount [['B', 'G', 'O', 'Y'], ['B', 'G', 'Y', 'O']]
            (findNextGuess [['B', 'G', 'O', 'Y'], ['B', 'G', 'Y', 'O']] []) ≤
          maxScoreCount [['B', 'G', 'O', 'Y'], ['B', 'G', 'Y', 'O']] q) ∧
      (∀ j, j < i → ∀ q,
        (([['B', 'G', 'O', 'Y'], ['B', 'G', 'Y', 'O']] : List Code).filter
          (fun p => !(([] : List Code).contains p))).get? j = some q →
          maxScoreCount [['B', 'G', 'O', 'Y'], ['B', 'G', 'Y', 'O']]
              (findNextGuess [['B', 'G', 'O', 'Y'], ['B', 'G', 'Y', 'O']] []) <
            maxScoreCount [['B', 'G', 'O', 'Y'], ['B', 'G', 'Y', 'O']] q)) :=
  C3_first_minimizer [['B', 'G', 'O', 'Y'], ['B', 'G', 'Y', 'O']] []
    (by decide) (natCast_lt_numberMaxValue 2 (by decide)) (by decide)

/-- C9 (amended): `findNextGuess` returns an element of `remaining` when
`remaining` is a singleton (that element), or when some element is unused
and the length is below `Number.MAX_VALUE`. -/
theorem C9_returns_element (remaining usedCodes : List Code)
    (h : remaining.length = 1 ∨
      ((∃ p ∈ remaining, usedCodes.contains p = false) ∧
        ((remaining.length : Nat) : Int) < numberMaxValue)) :
    findNextGuess remaining usedCodes ∈ remaining ∧
    (∀ x : Code, remaining = [x] → findNextGuess remaining usedCodes = x) := by
  constructor
  · by_cases hl1 : remaining.length = 1
    · obtain ⟨x, rfl⟩ := List.length_eq_one.mp hl1
      rw [findNextGuess_singleton]
      exact List.mem_cons_self _ _
    · rcases h with h | ⟨⟨p0, hp0, hp0u⟩, hlen⟩
      · exact absurd h hl1
      · have hF : findNextGuess remaining usedCodes =
            (selectPre ((remaining.filter (fun p => !(usedCodes.contains p))).map
              (fun p => (p, maxScoreCount remaining p))) (numberMaxValue, [])).2 := by
          unfold findNextGuess
          rw [show (remaining.length == 1) = false from by
            simp only [beq_eq_false_iff_ne]
            exact hl1]
          simp only [Bool.false_eq_true, if_false]
          rw [selectLoop_eq_selectPre]
        have hp0f : p0 ∈ remaining.filter (fun p => !(usedCodes.contains p)) := by
          apply List.mem_filter.mpr
          exact ⟨hp0, by rw [hp0u]; rfl⟩
        have hlnn : (remaining.filter (fun p => !(usedCodes.contains p))).map
            (fun p => (p, maxScoreCount remaining p)) ≠ [] := by
          intro hcon
          rw [List.map_eq_nil.mp hcon] at hp0f
          cases hp0f
        have hbound : ∀ qw ∈ (remaining.filter (fun p => !(usedCodes.contains p))).map
            (fun p => (p, maxScoreCount remaining p)),
            ((qw.2 : Int)) < numberMaxValue := by
          intro qw hq
          obtain ⟨q, hqmem, rfl⟩ := List.mem_map.mp hq
          have h1 : maxScoreCount remaining q ≤ remaining.length :=
            maxScoreCount_le_length remaining q
          have h2 : ((maxScoreCount remaining q : Nat) : Int) ≤
              ((remaining.length : Nat) : Int) := by exact_mod_cast h1
          exact lt_of_le_of_lt h2 hlen
        obtain ⟨i, pw, hget, heq, hmin, hfirst⟩ := selectPre_min_char _ hlnn hbound
        rw [List.get?_map] at hget
        obtain ⟨q, hq, hpw⟩ := Option.map_eq_some'.mp hget
        rw [hF, heq, ← hpw]
        exact List.mem_of_mem_filter (List.get?_mem hq)
  · intro x hx
    rw [hx]
    exact findNextGuess_singleton x usedCodes

/-- Counterexample to C9 as stated: a non-empty pool, every element
already used — the returned value is the empty string, not an element. -/
theorem C9_counterexample :
    findNextGuess [['O', 'P', 'Y', 'G'], ['G', 'P', 'Y', 'B']]
        [['O', 'P', 'Y', 'G'], ['G', 'P', 'Y', 'B']] = [] ∧
    (([] : Code) ∉ ([['O', 'P', 'Y', 'G'], ['G', 'P', 'Y', 'B']] : List Code)) ∧
    ([['O', 'P', 'Y', 'G'], ['G', 'P', 'Y', 'B']] : List Code) ≠ [] := by
  refine ⟨rfl, by decide, by decide⟩

/-- Witness: C9 on a singleton pool and on a two-element unused pool. -/
theorem C9_returns_element_witness :
    findNextGuess [['O', 'P', 'Y', 'G'], ['G', 'P', 'Y', 'B']] [] ∈
      ([['O', 'P', 'Y', 'G'], ['G', 'P', 'Y', 'B']] : List Code) ∧
    (∀ x : Code, ([['O', 'P', 'Y', 'G'], ['G', 'P', 'Y', 'B']] : List Code) = [x] →
      findNextGuess [['O', 'P', 'Y', 'G'], ['G', 'P', 'Y', 'B']] [] = x) :=
  C9_returns_element [['O', 'P', 'Y', 'G'], ['G', 'P', 'Y', 'B']] []
    (Or.inr ⟨⟨['O', 'P', 'Y', 'G'], by decide, by decide⟩,
      natCast_lt_numberMaxValue 2 (by decide)⟩)


lemma contains_false_iff (l : List Code) (c : Code) :
    l.contains c = false ↔ c ∉ l := by
  rw [Bool.eq_false_iff]
  constructor
  · intro h hm
    exact h (List.elem_eq_true_of_mem hm)
  · intro h hc
    exact h (List.mem_of_elem_eq_true hc)

lemma contains_append_singleton (used : List Code) (g c : Code) :
    (used ++ [g]).contains c = false ↔ used.contains c = false ∧ c ≠ g := by
  rw [contains_false_iff, contains_false_iff, List.mem_append]
  simp [not_or]

lemma findNextGuess_nil (usedCodes : List Code) :
    findNextGuess [] usedCodes = [] := rfl

/-- Under used-disjointness and a length bound, `findNextGuess` of a
non-empty pool returns an element of the pool. -/
lemma findNextGuess_mem_of_disjoint (E U : List Code) (hne : E ≠ [])
    (hdisj : ∀ c ∈ E, U.contains c = false)
    (hlen : ((E.length : Nat) : Int) < numberMaxValue) :
    findNextGuess E U ∈ E := by
  by_cases hl1 : E.length = 1
  · obtain ⟨x, rfl⟩ := List.length_eq_one.mp hl1
    rw [findNextGuess_singleton]
    exact List.mem_cons_self _ _
  · have h1 : (E.length == 1) = false := by
      simp only [beq_eq_false_iff_ne]
      exact hl1
    rw [findNextGuess_eq_selectPre E U h1 hdisj]
    have hlnn : E.map (fun p => (p, maxCount (scoreRow E p))) ≠ [] := by
      intro hcon
      exact hne (List.map_eq_nil_iff.mp hcon)
    have hbound : ∀ qw ∈ E.map (fun p => (p, maxCount (scoreRow E p))),
        ((qw.2 : Int)) < numberMaxValue := by
      intro qw hq
      obtain ⟨q, hqmem, rfl⟩ := List.mem_map.mp hq
      have hle : maxCount (scoreRow E q) ≤ E.length := by
        calc maxCount (scoreRow E q) ≤ (scoreRow E q).length := maxCount_le_length _
          _ = E.length := List.length_map E _
      have h2 : ((maxCount (scoreRow E q) : Nat) : Int) ≤
          ((E.length : Nat) : Int) := by exact_mod_cast hle
      exact lt_of_le_of_lt h2 hlen
    obtain ⟨i, pw, hget, heq, hmin, hfirst⟩ := selectPre_min_char _ hlnn hbound
    rw [List.get?_map] at hget
    obtain ⟨q, hq, hpw⟩ := Option.map_eq_some'.mp hget
    rw [heq, ← hpw]
    exact List.get?_mem hq

/-- Well-formedness of every element of `initializeSet` (one boolean
pass). -/
lemma initializeSet_wf : ∀ c ∈ initializeSet, WellFormed c := by
  have hwfall : rall (fun c => decide (WellFormed c)) initializeSet = true := by rfl
  intro c hc
  exact of_decide_eq_true (forall_of_rall _ _ hwfall c hc)

/-- The running invariant of the solve loop: the trace of issued guesses
never repeats and avoids the initial used set. -/
lemma ntl35 : ∀ s ∈ ([['P', 'Y', 'B', 'R'],
      ['P', 'Y', 'G', 'B'],
      ['P', 'Y', 'G', 'O'],
      ['P', 'Y', 'G', 'R'],
      ['P', 'Y', 'O', 'B'],
      ['P', 'Y', 'O', 'G'],
      ['P', 'Y', 'O', 'R'],
      ['P', 'Y', 'R', 'B'],
      ['P', 'Y', 'R', 'G'],
      ['P', 'Y', 'R', 'O']] : List Code),
    (loopRun (honest s) 7 none S0 []).2.Nodup :=
  List.forall_mem_cons.mpr ⟨nodup_of_eq rs350 (by decide),
  List.forall_mem_cons.mpr ⟨nodup_of_eq rs351 (by decide),
  List.forall_mem_cons.mpr ⟨nodup_of_eq rs352 (by decide),
  List.forall_mem_cons.mpr ⟨nodup_of_eq rs353 (by decide),
  List.forall_mem_cons.mpr ⟨nodup_of_eq rs354 (by decide),
  List.forall_mem_cons.mpr ⟨nodup_of_eq rs355 (by decide),
  List.forall_mem_cons.mpr ⟨nodup_of_eq rs356 (by decide),
  List.forall_mem_cons.mpr ⟨nodup_of_eq rs357 (by decide),
  List.forall_mem_cons.mpr ⟨nodup_of_eq rs358 (by decide),
  List.forall_mem_cons.mpr ⟨nodup_of_eq rs359 (by decide),
  List.forall_mem_nil _⟩⟩⟩⟩⟩⟩⟩⟩⟩⟩


lemma ntl34 : ∀ s ∈ ([['P', 'R', 'G', 'O'],
      ['P', 'R', 'G', 'Y'],
      ['P', 'R', 'O', 'B'],
      ['P', 'R', 'O', 'G'],
      ['P', 'R', 'O', 'Y'],
      ['P', 'R', 'Y', 'B'],
      ['P', 'R', 'Y', 'G'],
      ['P', 'R', 'Y', 'O'],
      ['P', 'Y', 'B', 'G'],
      ['P', 'Y', 'B', 'O'],
      ['P', 'Y', 'B', 'R'],
      ['P', 'Y', 'G', 'B'],
      ['P', 'Y', 'G', 'O'],
      ['P', 'Y', 'G', 'R'],
      ['P', 'Y', 'O', 'B'],
      ['P', 'Y', 'O', 'G'],
      ['P', 'Y', 'O', 'R'],
      ['P', 'Y', 'R', 'B'],
      ['P', 'Y', 'R', 'G'],
      ['P', 'Y', 'R', 'O']] : List Code),
    (loopRun (honest s) 7 none S0 []).2.Nodup :=
  List.forall_mem_cons.mpr ⟨nodup_of_eq rs340 (by decide),
  List.forall_mem_cons.mpr ⟨nodup_of_eq rs341 (by decide),
  List.forall_mem_cons.mpr ⟨nodup_of_eq rs342 (by decide),
  List.forall_mem_cons.mpr ⟨nodup_of_eq rs343 (by decide),
  List.forall_mem_cons.mpr ⟨nodup_of_eq rs344 (by decide),
  List.forall_mem_cons.mpr ⟨nodup_of_eq rs345 (by decide),
  List.forall_mem_cons.mpr ⟨nodup_of_eq rs346 (by decide),
  List.forall_mem_cons.mpr ⟨nodup_of_eq rs347 (by decide),
  List.forall_mem_cons.mpr ⟨nodup_of_eq rs348 (by decide),
  List.forall_mem_cons.mpr ⟨nodup_of_eq rs349 (by decide),
  ntl35⟩⟩⟩⟩⟩⟩⟩⟩⟩⟩


lemma ntl33 : ∀ s ∈ ([['P', 'O', 'R', 'B'],
      ['P', 'O', 'R', 'G'],
      ['P', 'O', 'R', 'Y'],
      ['P', 'O', 'Y', 'B'],
      ['P', 'O', 'Y', 'G'],
      ['P', 'O', 'Y', 'R'],
      ['P', 'R', 'B', 'G'],
      ['P', 'R', 'B', 'O'],
      ['P', 'R', 'B', 'Y'],
      ['P', 'R', 'G', 'B'],
      ['P', 'R', 'G', 'O'],
      ['P', 'R', 'G', 'Y'],
      ['P', 'R', 'O', 'B'],
      ['P', 'R', 'O', 'G'],
      ['P', 'R', 'O', 'Y'],
      ['P', 'R', 'Y', 'B'],
      ['P', 'R', 'Y', 'G'],
      ['P', 'R', 'Y', 'O'],
      ['P', 'Y', 'B', 'G'],
      ['P', 'Y', 'B', 'O'],
      ['P', 'Y', 'B', 'R'],
      ['P', 'Y', 'G', 'B'],
      ['P', 'Y', 'G', 'O'],
      ['P', 'Y', 'G', 'R'],
      ['P', 'Y', 'O', 'B'],
      ['P', 'Y', 'O', 'G'],
      ['P', 'Y', 'O', 'R'],
      ['P', 'Y', 'R', 'B'],
      ['P', 'Y', 'R', 'G'],
      ['P', 'Y', 'R', 'O']] : List Code),
    (loopRun (honest s) 7 none S0 []).2.Nodup :=
  List.forall_mem_cons.mpr ⟨nodup_of_eq rs330 (by decide),
  List.forall_mem_cons.mpr ⟨nodup_of_eq rs331 (by decide),
  List.forall_mem_cons.mpr ⟨nodup_of_eq rs332 (by decide),
  List.forall_mem_cons.mpr ⟨nodup_of_eq rs333 (by decide),
  List.forall_mem_cons.mpr ⟨nodup_of_eq rs334 (by decide),
  List.forall_mem_cons.mpr ⟨nodup_of_eq rs335 (by decide),
  List.forall_mem_cons.mpr ⟨nodup_of_eq rs336 (by decide),
  List.forall_mem_cons.mpr ⟨nodup_of_eq rs337 (by decide),
  List.forall_mem_cons.mpr ⟨nodup_of_eq rs338 (by decide),
  List.forall_mem_cons.mpr ⟨nodup_of_eq rs339 (by decide),
  ntl34⟩⟩⟩⟩⟩⟩⟩⟩⟩⟩


lemma ntl32 : ∀ s ∈ ([['P', 'G', 'R', 'Y'],
      ['P', 'G', 'Y', 'B'],
      ['P', 'G', 'Y', 'O'],
      ['P', 'G', 'Y', 'R'],
      ['P', 'O', 'B', 'G'],
      ['P', 'O', 'B', 'R'],
      ['P', 'O', 'B', 'Y'],
      ['P', 'O', 'G', 'B'],
      ['P', 'O', 'G', 'R'],
      ['P', 'O', 'G', 'Y'],
      ['P', 'O', 'R', 'B'],
      ['P', 'O', 'R', 'G'],
      ['P', 'O', 'R', 'Y'],
      ['P', 'O', 'Y', 'B'],
      ['P', 'O', 'Y', 'G'],
      ['P', 'O', 'Y', 'R'],
      ['P', 'R', 'B', 'G'],
      ['P', 'R', 'B', 'O'],
      ['P', 'R', 'B', 'Y'],
      ['P', 'R', 'G', 'B'],
      ['P', 'R', 'G', 'O'],
      ['P', 'R', 'G', 'Y'],
      ['P', 'R', 'O', 'B'],
      ['P', 'R', 'O', 'G'],
      ['P', 'R', 'O', 'Y'],
      ['P', 'R', 'Y', 'B'],
      ['P', 'R', 'Y', 'G'],
      ['P', 'R', 'Y', 'O'],
      ['P', 'Y', 'B', 'G'],
      ['P', 'Y', 'B', 'O'],
      ['P', 'Y', 'B', 'R'],
      ['P', 'Y', 'G', 'B'],
      ['P', 'Y', 'G', 'O'],
      ['P', 'Y', 'G', 'R'],
      ['P', 'Y', 'O', 'B'],
      ['P', 'Y', 'O', 'G'],
      ['P', 'Y', 'O', 'R'],
      ['P', 'Y', 'R', 'B'],
      ['P', 'Y', 'R', 'G'],
      ['P', 'Y', 'R', 'O']] : List Code),
    (loopRun (honest s) 7 none S0 []).2.Nodup :=
  List.forall_mem_cons.mpr ⟨nodup_of_eq rs320 (by decide),
  List.forall_mem_cons.mpr ⟨nodup_of_eq rs321 (by decide),
  List.forall_mem_cons.mpr ⟨nodup_of_eq rs322 (by decide),
  List.forall_mem_cons.mpr ⟨nodup_of_eq rs323 (by decide),
  List.forall_mem_cons.mpr ⟨nodup_of_eq rs324 (by decide),
  List.forall_mem_cons.mpr ⟨nodup_of_eq rs325 (by decide),
  List.forall_mem_cons.mpr ⟨nodup_of_eq rs326 (by decide),
  List.forall_mem_cons.mpr ⟨nodup_of_eq rs327 (by decide),
  List.forall_mem_cons.mpr ⟨nodup_of_eq rs328 (by decide),
  List.forall_mem_cons.mpr ⟨nodup_of_eq rs329 (by decide),
  ntl33⟩⟩⟩⟩⟩⟩⟩⟩⟩⟩


lemma ntl31 : ∀ s ∈ ([['P', 'B', 'Y', 'O'],
      ['P', 'B', 'Y', 'R'],
      ['P', 'G', 'B', 'O'],
      ['P', 'G', 'B', 'R'],
      ['P', 'G', 'B', 'Y'],
      ['P', 'G', 'O', 'B'],
      ['P', 'G', 'O', 'R'],
      ['P', 'G', 'O', 'Y'],
      ['P', 'G', 'R', 'B'],
      ['P', 'G', 'R', 'O'],
      ['P', 'G', 'R', 'Y'],
      ['P', 'G', 'Y', 'B'],
      ['P', 'G', 'Y', 'O'],
      ['P', 'G', 'Y', 'R'],
      ['P', 'O', 'B', 'G'],
      ['P', 'O', 'B', 'R'],
      ['P', 'O', 'B', 'Y'],
      ['P', 'O', 'G', 'B'],
      ['P', 'O', 'G', 'R'],
      ['P', 'O', 'G', 'Y'],
      ['P', 'O', 'R', 'B'],
      ['P', 'O', 'R', 'G'],
      ['P', 'O', 'R', 'Y'],
      ['P', 'O', 'Y', 'B'],
      ['P', 'O', 'Y', 'G'],
      ['P', 'O', 'Y', 'R'],
      ['P', 'R', 'B', 'G'],
      ['P', 'R', 'B', 'O'],
      ['P', 'R', 'B', 'Y'],
      ['P', 'R', 'G', 'B'],
      ['P', 'R', 'G', 'O'],
      ['P', 'R', 'G', 'Y'],
      ['P', 'R', 'O', 'B'],
      ['P', 'R', 'O', 'G'],
      ['P', 'R', 'O', 'Y'],
      ['P', 'R', 'Y', 'B'],
      ['P', 'R', 'Y', 'G'],
      ['P', 'R', 'Y', 'O'],
      ['P', 'Y', 'B', 'G'],
      ['P', 'Y', 'B', 'O'],
      ['P', 'Y', 'B', 'R'],
      ['P', 'Y', 'G', 'B'],
      ['P', 'Y', 'G', 'O'],
      ['P', 'Y', 'G', 'R'],
      ['P', 'Y', 'O', 'B'],
      ['P', 'Y', 'O', 'G'],
      ['P', 'Y', 'O', 'R'],
      ['P', 'Y', 'R', 'B'],
      ['P', 'Y', 'R', 'G'],
      ['P', 'Y', 'R', 'O']] : List Code),
    (loopRun (honest s) 7 none S0 []).2.Nodup :=
  List.forall_mem_cons.mpr ⟨nodup_of_eq rs310 (by decide),
  List.forall_mem_cons.mpr ⟨nodup_of_eq rs311 (by decide),
  List.forall_mem_cons.mpr ⟨nodup_of_eq rs312 (by decide),
  List.forall_mem_cons.mpr ⟨nodup_of_eq rs313 (by decide),
  List.forall_mem_cons.mpr ⟨nodup_of_eq rs314 (by decide),
  List.forall_mem_cons.mpr ⟨nodup_of_eq rs315 (by decide),
  List.forall_mem_cons.mpr ⟨nodup_of_eq rs316 (by decide),
  List.forall_mem_cons.mpr ⟨nodup_of_eq rs317 (by decide),
  List.forall_mem_cons.mpr ⟨nodup_of_eq rs318 (by decide),
  List.forall_mem_cons.mpr ⟨nodup_of_eq rs319 (by decide),
  ntl32⟩⟩⟩⟩⟩⟩⟩⟩⟩⟩


lemma ntl30 : ∀ s ∈ ([['P', 'B', 'G', 'O'],
      ['P', 'B', 'G', 'R'],
      ['P', 'B', 'G', 'Y'],
      ['P', 'B', 'O', 'G'],
      ['P', 'B', 'O', 'R'],
      ['P', 'B', 'O', 'Y'],
      ['P', 'B', 'R', 'G'],
      ['P', 'B', 'R', 'O'],
      ['P', 'B', 'R', 'Y'],
      ['P', 'B', 'Y', 'G'],
      ['P', 'B', 'Y', 'O'],
      ['P', 'B', 'Y', 'R'],
      ['P', 'G', 'B', 'O'],
      ['P', 'G', 'B', 'R'],
      ['P', 'G', 'B', 'Y'],
      ['P', 'G', 'O', 'B'],
      ['P', 'G', 'O', 'R'],
      ['P', 'G', 'O', 'Y'],
      ['P', 'G', 'R', 'B'],
      ['P', 'G', 'R', 'O'],
      ['P', 'G', 'R', 'Y'],
      ['P', 'G', 'Y', 'B'],
      ['P', 'G', 'Y', 'O'],
      ['P', 'G', 'Y', 'R'],
      ['P', 'O', 'B', 'G'],
      ['P', 'O', 'B', 'R'],
      ['P', 'O', 'B', 'Y'],
      ['P', 'O', 'G', 'B'],
      ['P', 'O', 'G', 'R'],
      ['P', 'O', 'G', 'Y'],
      ['P', 'O', 'R', 'B'],
      ['P', 'O', 'R', 'G'],
      ['P', 'O', 'R', 'Y'],
      ['P', 'O', 'Y', 'B'],
      ['P', 'O', 'Y', 'G'],
      ['P', 'O', 'Y', 'R'],
      ['P', 'R', 'B', 'G'],
      ['P', 'R', 'B', 'O'],
      ['P', 'R', 'B', 'Y'],
      ['P', 'R', 'G', 'B'],
      ['P', 'R', 'G', 'O'],
      ['P', 'R', 'G', 'Y'],
      ['P', 'R', 'O', 'B'],
      ['P', 'R', 'O', 'G'],
      ['P', 'R', 'O', 'Y'],
      ['P', 'R', 'Y', 'B'],
      ['P', 'R', 'Y', 'G'],
      ['P', 'R', 'Y', 'O'],
      ['P', 'Y', 'B', 'G'],
      ['P', 'Y', 'B', 'O'],
      ['P', 'Y', 'B', 'R'],
      ['P', 'Y', 'G', 'B'],
      ['P', 'Y', 'G', 'O'],
      ['P', 'Y', 'G', 'R'],
      ['P', 'Y', 'O', 'B'],
      ['P', 'Y', 'O', 'G'],
      ['P', 'Y', 'O', 'R'],
      ['P', 'Y', 'R', 'B'],
      ['P', 'Y', 'R', 'G'],
      ['P', 'Y', 'R', 'O']] : List Code),
    (loopRun (honest s) 7 none S0 []).2.Nodup :=
  List.forall_mem_cons.mpr ⟨nodup_of_eq rs300 (by decide),
  List.forall_mem_cons.mpr ⟨nodup_of_eq rs301 (by decide),
  List.forall_mem_cons.mpr ⟨nodup_of_eq rs302 (by decide),
  List.forall_mem_cons.mpr ⟨nodup_of_eq rs303 (by decide),
  List.forall_mem_cons.mpr ⟨nodup_of_eq rs304 (by decide),
  List.forall_mem_cons.mpr ⟨nodup_of_eq rs305 (by decide),
  List.forall_mem_cons.mpr ⟨nodup_of_eq rs306 (by decide),
  List.forall_mem_cons.mpr ⟨nodup_of_eq rs307 (by decide),
  List.forall_mem_cons.mpr ⟨nodup_of_eq rs308 (by decide),
  List.forall_mem_cons.mpr ⟨nodup_of_eq rs309 (by decide),
  ntl31⟩⟩⟩⟩⟩⟩⟩⟩⟩⟩


lemma ntl29 : ∀ s ∈ ([['Y', 'P', 'B', 'R'],
      ['Y', 'P', 'G', 'B'],
      ['Y', 'P', 'G', 'O'],
      ['Y', 'P', 'G', 'R'],
      ['Y', 'P', 'O', 'B'],
      ['Y', 'P', 'O', 'G'],
      ['Y', 'P', 'O', 'R'],
      ['Y', 'P', 'R', 'B'],
      ['Y', 'P', 'R', 'G'],
      ['Y', 'P', 'R', 'O'],
      ['P', 'B', 'G', 'O'],
      ['P', 'B', 'G', 'R'],
      ['P', 'B', 'G', 'Y'],
      ['P', 'B', 'O', 'G'],
      ['P', 'B', 'O', 'R'],
      ['P', 'B', 'O', 'Y'],
      ['P', 'B', 'R', 'G'],
      ['P', 'B', 'R', 'O'],
      ['P', 'B', 'R', 'Y'],
      ['P', 'B', 'Y', 'G'],
      ['P', 'B', 'Y', 'O'],
      ['P', 'B', 'Y', 'R'],
      ['P', 'G', 'B', 'O'],
      ['P', 'G', 'B', 'R'],
      ['P', 'G', 'B', 'Y'],
      ['P', 'G', 'O', 'B'],
      ['P', 'G', 'O', 'R'],
      ['P', 'G', 'O', 'Y'],
      ['P', 'G', 'R', 'B'],
      ['P', 'G', 'R', 'O'],
      ['P', 'G', 'R', 'Y'],
      ['P', 'G', 'Y', 'B'],
      ['P', 'G', 'Y', 'O'],
      ['P', 'G', 'Y', 'R'],
      ['P', 'O', 'B', 'G'],
      ['P', 'O', 'B', 'R'],
      ['P', 'O', 'B', 'Y'],
      ['P', 'O', 'G', 'B'],
      ['P', 'O', 'G', 'R'],
      ['P', 'O', 'G', 'Y'],
      ['P', 'O', 'R', 'B'],
      ['P', 'O', 'R', 'G'],
      ['P', 'O', 'R', 'Y'],
      ['P', 'O', 'Y', 'B'],
      ['P', 'O', 'Y', 'G'],
      ['P', 'O', 'Y', 'R'],
      ['P', 'R', 'B', 'G'],
      ['P', 'R', 'B', 'O'],
      ['P', 'R', 'B', 'Y'],
      ['P', 'R', 'G', 'B'],
      ['P', 'R', 'G', 'O'],
      ['P', 'R', 'G', 'Y'],
      ['P', 'R', 'O', 'B'],
      ['P', 'R', 'O', 'G'],
      ['P', 'R', 'O', 'Y'],
      ['P', 'R', 'Y', 'B'],
      ['P', 'R', 'Y', 'G'],
      ['P', 'R', 'Y', 'O'],
      ['P', 'Y', 'B', 'G'],
      ['P', 'Y', 'B', 'O'],
      ['P', 'Y', 'B', 'R'],
      ['P', 'Y', 'G', 'B'],
      ['P', 'Y', 'G', 'O'],
      ['P', 'Y', 'G', 'R'],
      ['P', 'Y', 'O', 'B'],
      ['P', 'Y', 'O', 'G'],
      ['P', 'Y', 'O', 'R'],
      ['P', 'Y', 'R', 'B'],
      ['P', 'Y', 'R', 'G'],
      ['P', 'Y', 'R', 'O']] : List Code),
    (loopRun (honest s) 7 none S0 []).2.Nodup :=
  List.forall_mem_cons.mpr ⟨nodup_of_eq rs290 (by decide),
  List.forall_mem_cons.mpr ⟨nodup_of_eq rs291 (by decide),
  List.forall_mem_cons.mpr ⟨nodup_of_eq rs292 (by decide),
  List.forall_mem_cons.mpr ⟨nodup_of_eq rs293 (by decide),
  List.forall_mem_cons.mpr ⟨nodup_of_eq rs294 (by decide),
  List.forall_mem_cons.mpr ⟨nodup_of_eq rs295 (by decide),
  List.forall_mem_cons.mpr ⟨nodup_of_eq rs296 (by decide),
  List.forall_mem_cons.mpr ⟨nodup_of_eq rs297 (by decide),
  List.forall_mem_cons.mpr ⟨nodup_of_eq rs298 (by decide),
  List.forall_mem_cons.mpr ⟨nodup_of_eq rs299 (by decide),
  ntl30⟩⟩⟩⟩⟩⟩⟩⟩⟩⟩


lemma ntl28 : ∀ s ∈ ([['Y', 'R', 'G', 'O'],
      ['Y', 'R', 'G', 'P'],
      ['Y', 'R', 'O', 'B'],
      ['Y', 'R', 'O', 'G'],
      ['Y', 'R', 'O', 'P'],
      ['Y', 'R', 'P', 'B'],
      ['Y', 'R', 'P', 'G'],
      ['Y', 'R', 'P', 'O'],
      ['Y', 'P', 'B', 'G'],
      ['Y', 'P', 'B', 'O'],
      ['Y', 'P', 'B', 'R'],
      ['Y', 'P', 'G', 'B'],
      ['Y', 'P', 'G', 'O'],
      ['Y', 'P', 'G', 'R'],
      ['Y', 'P', 'O', 'B'],
      ['Y', 'P', 'O', 'G'],
      ['Y', 'P', 'O', 'R'],
      ['Y', 'P', 'R', 'B'],
      ['Y', 'P', 'R', 'G'],
      ['Y', 'P', 'R', 'O'],
      ['P', 'B', 'G', 'O'],
      ['P', 'B', 'G', 'R'],
      ['P', 'B', 'G', 'Y'],
      ['P', 'B', 'O', 'G'],
      ['P', 'B', 'O', 'R'],
      ['P', 'B', 'O', 'Y'],
      ['P', 'B', 'R', 'G'],
      ['P', 'B', 'R', 'O'],
      ['P', 'B', 'R', 'Y'],
      ['P', 'B', 'Y', 'G'],
      ['P', 'B', 'Y', 'O'],
      ['P', 'B', 'Y', 'R'],
      ['P', 'G', 'B', 'O'],
      ['P', 'G', 'B', 'R'],
      ['P', 'G', 'B', 'Y'],
      ['P', 'G', 'O', 'B'],
      ['P', 'G', 'O', 'R'],
      ['P', 'G', 'O', 'Y'],
      ['P', 'G', 'R', 'B'],
      ['P', 'G', 'R', 'O'],
      ['P', 'G', 'R', 'Y'],
      ['P', 'G', 'Y', 'B'],
      ['P', 'G', 'Y', 'O'],
      ['P', 'G', 'Y', 'R'],
      ['P', 'O', 'B', 'G'],
      ['P', 'O', 'B', 'R'],
      ['P', 'O', 'B', 'Y'],
      ['P', 'O', 'G', 'B'],
      ['P', 'O', 'G', 'R'],
      ['P', 'O', 'G', 'Y'],
      ['P', 'O', 'R', 'B'],
      ['P', 'O', 'R', 'G'],
      ['P', 'O', 'R', 'Y'],
      ['P', 'O', 'Y', 'B'],
      ['P', 'O', 'Y', 'G'],
      ['P', 'O', 'Y', 'R'],
      ['P', 'R', 'B', 'G'],
      ['P', 'R', 'B', 'O'],
      ['P', 'R', 'B', 'Y'],
      ['P', 'R', 'G', 'B'],
      ['P', 'R', 'G', 'O'],
      ['P', 'R', 'G', 'Y'],
      ['P', 'R', 'O', 'B'],
      ['P', 'R', 'O', 'G'],
      ['P', 'R', 'O', 'Y'],
      ['P', 'R', 'Y', 'B'],
      ['P', 'R', 'Y', 'G'],
      ['P', 'R', 'Y', 'O'],
      ['P', 'Y', 'B', 'G'],
      ['P', 'Y', 'B', 'O'],
      ['P', 'Y', 'B', 'R'],
      ['P', 'Y', 'G', 'B'],
      ['P', 'Y', 'G', 'O'],
      ['P', 'Y', 'G', 'R'],
      ['P', 'Y', 'O', 'B'],
      ['P', 'Y', 'O', 'G'],
      ['P', 'Y', 'O', 'R'],
      ['P', 'Y', 'R', 'B'],
      ['P', 'Y', 'R', 'G'],
      ['P', 'Y', 'R', 'O']] : List Code),
    (loopRun (honest s) 7 none S0 []).2.Nodup :=
  List.forall_mem_cons.mpr ⟨nodup_of_eq rs280 (by decide),
  List.forall_mem_cons.mpr ⟨nodup_of_eq rs281 (by decide),
  List.forall_mem_cons.mpr ⟨nodup_of_eq rs282 (by decide),
  List.forall_mem_cons.mpr ⟨nodup_of_eq rs283 (by decide),
  List.forall_mem_cons.mpr ⟨nodup_of_eq rs284 (by decide),
  List.forall_mem_cons.mpr ⟨nodup_of_eq rs285 (by decide),
  List.forall_mem_cons.mpr ⟨nodup_of_eq rs286 (by decide),
  List.forall_mem_cons.mpr ⟨nodup_of_eq rs287 (by decide),
  List.forall_mem_cons.mpr ⟨nodup_of_eq rs288 (by decide),
  List.forall_mem_cons.mpr ⟨nodup_of_eq rs289 (by decide),
  ntl29⟩⟩⟩⟩⟩⟩⟩⟩⟩⟩


lemma ntl27 : ∀ s ∈ ([['Y', 'O', 'R', 'B'],
      ['Y', 'O', 'R', 'G'],
      ['Y', 'O', 'R', 'P'],
      ['Y', 'O', 'P', 'B'],
      ['Y', 'O', 'P', 'G'],
      ['Y', 'O', 'P', 'R'],
      ['Y', 'R', 'B', 'G'],
      ['Y', 'R', 'B', 'O'],
      ['Y', 'R', 'B', 'P'],
      ['Y', 'R', 'G', 'B'],
      ['Y', 'R', 'G', 'O'],
      ['Y', 'R', 'G', 'P'],
      ['Y', 'R', 'O', 'B'],
      ['Y', 'R', 'O', 'G'],
      ['Y', 'R', 'O', 'P'],
      ['Y', 'R', 'P', 'B'],
      ['Y', 'R', 'P', 'G'],
      ['Y', 'R', 'P', 'O'],
      ['Y', 'P', 'B', 'G'],
      ['Y', 'P', 'B', 'O'],
      ['Y', 'P', 'B', 'R'],
      ['Y', 'P', 'G', 'B'],
      ['Y', 'P', 'G', 'O'],
      ['Y', 'P', 'G', 'R'],
      ['Y', 'P', 'O', 'B'],
      ['Y', 'P', 'O', 'G'],
      ['Y', 'P', 'O', 'R'],
      ['Y', 'P', 'R', 'B'],
      ['Y', 'P', 'R', 'G'],
      ['Y', 'P', 'R', 'O'],
      ['P', 'B', 'G', 'O'],
      ['P', 'B', 'G', 'R'],
      ['P', 'B', 'G', 'Y'],
      ['P', 'B', 'O', 'G'],
      ['P', 'B', 'O', 'R'],
      ['P', 'B', 'O', 'Y'],
      ['P', 'B', 'R', 'G'],
      ['P', 'B', 'R', 'O'],
      ['P', 'B', 'R', 'Y'],
      ['P', 'B', 'Y', 'G'],
      ['P', 'B', 'Y', 'O'],
      ['P', 'B', 'Y', 'R'],
      ['P', 'G', 'B', 'O'],
      ['P', 'G', 'B', 'R'],
      ['P', 'G', 'B', 'Y'],
      ['P', 'G', 'O', 'B'],
      ['P', 'G', 'O', 'R'],
      ['P', 'G', 'O', 'Y'],
      ['P', 'G', 'R', 'B'],
      ['P', 'G', 'R', 'O'],
      ['P', 'G', 'R', 'Y'],
      ['P', 'G', 'Y', 'B'],
      ['P', 'G', 'Y', 'O'],
      ['P', 'G', 'Y', 'R'],
      ['P', 'O', 'B', 'G'],
      ['P', 'O', 'B', 'R'],
      ['P', 'O', 'B', 'Y'],
      ['P', 'O', 'G', 'B'],
      ['P', 'O', 'G', 'R'],
      ['P', 'O', 'G', 'Y'],
      ['P', 'O', 'R', 'B'],
      ['P', 'O', 'R', 'G'],
      ['P', 'O', 'R', 'Y'],
      ['P', 'O', 'Y', 'B'],
      ['P', 'O', 'Y', 'G'],
      ['P', 'O', 'Y', 'R'],
      ['P', 'R', 'B', 'G'],
      ['P', 'R', 'B', 'O'],
      ['P', 'R', 'B', 'Y'],
      ['P', 'R', 'G', 'B'],
      ['P', 'R', 'G', 'O'],
      ['P', 'R', 'G', 'Y'],
      ['P', 'R', 'O', 'B'],
      ['P', 'R', 'O', 'G'],
      ['P', 'R', 'O', 'Y'],
      ['P', 'R', 'Y', 'B'],
      ['P', 'R', 'Y', 'G'],
      ['P', 'R', 'Y', 'O'],
      ['P', 'Y', 'B', 'G'],
      ['P', 'Y', 'B', 'O'],
      ['P', 'Y', 'B', 'R'],
      ['P', 'Y', 'G', 'B'],
      ['P', 'Y', 'G', 'O'],
      ['P', 'Y', 'G', 'R'],
      ['P', 'Y', 'O', 'B'],
      ['P', 'Y', 'O', 'G'],
      ['P', 'Y', 'O', 'R'],
      ['P', 'Y', 'R', 'B'],
      ['P', 'Y', 'R', 'G'],
      ['P', 'Y', 'R', 'O']] : List Code),
    (loopRun (honest s) 7 none S0 []).2.Nodup :=
  List.forall_mem_cons.mpr ⟨nodup_of_eq rs270 (by decide),
  List.forall_mem_cons.mpr ⟨nodup_of_eq rs271 (by decide),
  List.forall_mem_cons.mpr ⟨nodup_of_eq rs272 (by decide),
  List.forall_mem_cons.mpr ⟨nodup_of_eq rs273 (by decide),
  List.forall_mem_cons.mpr ⟨nodup_of_eq rs274 (by decide),
  List.forall_mem_cons.mpr ⟨nodup_of_eq rs275 (by decide),
  List.forall_mem_cons.mpr ⟨nodup_of_eq rs276 (by decide),
  List.forall_mem_cons.mpr ⟨nodup_of_eq rs277 (by decide),
  List.forall_mem_cons.mpr ⟨nodup_of_eq rs278 (by decide),
  List.forall_mem_cons.mpr ⟨nodup_of_eq rs279 (by decide),
  ntl28⟩⟩⟩⟩⟩⟩⟩⟩⟩⟩


lemma ntl26 : ∀ s ∈ ([['Y', 'G', 'R', 'P'],
      ['Y', 'G', 'P', 'B'],
      ['Y', 'G', 'P', 'O'],
      ['Y', 'G', 'P', 'R'],
      ['Y', 'O', 'B', 'G'],
      ['Y', 'O', 'B', 'R'],
      ['Y', 'O', 'B', 'P'],
      ['Y', 'O', 'G', 'B'],
      ['Y', 'O', 'G', 'R'],
      ['Y', 'O', 'G', 'P'],
      ['Y', 'O', 'R', 'B'],
      ['Y', 'O', 'R', 'G'],
      ['Y', 'O', 'R', 'P'],
      ['Y', 'O', 'P', 'B'],
      ['Y', 'O', 'P', 'G'],
      ['Y', 'O', 'P', 'R'],
      ['Y', 'R', 'B', 'G'],
      ['Y', 'R', 'B', 'O'],
      ['Y', 'R', 'B', 'P'],
      ['Y', 'R', 'G', 'B'],
      ['Y', 'R', 'G', 'O'],
      ['Y', 'R', 'G', 'P'],
      ['Y', 'R', 'O', 'B'],
      ['Y', 'R', 'O', 'G'],
      ['Y', 'R', 'O', 'P'],
      ['Y', 'R', 'P', 'B'],
      ['Y', 'R', 'P', 'G'],
      ['Y', 'R', 'P', 'O'],
      ['Y', 'P', 'B', 'G'],
      ['Y', 'P', 'B', 'O'],
      ['Y', 'P', 'B', 'R'],
      ['Y', 'P', 'G', 'B'],
      ['Y', 'P', 'G', 'O'],
      ['Y', 'P', 'G', 'R'],
      ['Y', 'P', 'O', 'B'],
      ['Y', 'P', 'O', 'G'],
      ['Y', 'P', 'O', 'R'],
      ['Y', 'P', 'R', 'B'],
      ['Y', 'P', 'R', 'G'],
      ['Y', 'P', 'R', 'O'],
      ['P', 'B', 'G', 'O'],
      ['P', 'B', 'G', 'R'],
      ['P', 'B', 'G', 'Y'],
      ['P', 'B', 'O', 'G'],
      ['P', 'B', 'O', 'R'],
      ['P', 'B', 'O', 'Y'],
      ['P', 'B', 'R', 'G'],
      ['P', 'B', 'R', 'O'],
      ['P', 'B', 'R', 'Y'],
      ['P', 'B', 'Y', 'G'],
      ['P', 'B', 'Y', 'O'],
      ['P', 'B', 'Y', 'R'],
      ['P', 'G', 'B', 'O'],
      ['P', 'G', 'B', 'R'],
      ['P', 'G', 'B', 'Y'],
      ['P', 'G', 'O', 'B'],
      ['P', 'G', 'O', 'R'],
      ['P', 'G', 'O', 'Y'],
      ['P', 'G', 'R', 'B'],
      ['P', 'G', 'R', 'O'],
      ['P', 'G', 'R', 'Y'],
      ['P', 'G', 'Y', 'B'],
      ['P', 'G', 'Y', 'O'],
      ['P', 'G', 'Y', 'R'],
      ['P', 'O', 'B', 'G'],
      ['P', 'O', 'B', 'R'],
      ['P', 'O', 'B', 'Y'],
      ['P', 'O', 'G', 'B'],
      ['P', 'O', 'G', 'R'],
      ['P', 'O', 'G', 'Y'],
      ['P', 'O', 'R', 'B'],
      ['P', 'O', 'R', 'G'],
      ['P', 'O', 'R', 'Y'],
      ['P', 'O', 'Y', 'B'],
      ['P', 'O', 'Y', 'G'],
      ['P', 'O', 'Y', 'R'],
      ['P', 'R', 'B', 'G'],
      ['P', 'R', 'B', 'O'],
      ['P', 'R', 'B', 'Y'],
      ['P', 'R', 'G', 'B'],
      ['P', 'R', 'G', 'O'],
      ['P', 'R', 'G', 'Y'],
      ['P', 'R', 'O', 'B'],
      ['P', 'R', 'O', 'G'],
      ['P', 'R', 'O', 'Y'],
      ['P', 'R', 'Y', 'B'],
      ['P', 'R', 'Y', 'G'],
      ['P', 'R', 'Y', 'O'],
      ['P', 'Y', 'B', 'G'],
      ['P', 'Y', 'B', 'O'],
      ['P', 'Y', 'B', 'R'],
      ['P', 'Y', 'G', 'B'],
      ['P', 'Y', 'G', 'O'],
      ['P', 'Y', 'G', 'R'],
      ['P', 'Y', 'O', 'B'],
      ['P', 'Y', 'O', 'G'],
      ['P', 'Y', 'O', 'R'],
      ['P', 'Y', 'R', 'B'],
      ['P', 'Y', 'R', 'G'],
      ['P', 'Y', 'R', 'O']] : List Code),
    (loopRun (honest s) 7 none S0 []).2.Nodup :=
  List.forall_mem_cons.mpr ⟨nodup_of_eq rs260 (by decide),
  List.forall_mem_cons.mpr ⟨nodup_of_eq rs261 (by decide),
  List.forall_mem_cons.mpr ⟨nodup_of_eq rs262 (by decide),
  List.forall_mem_cons.mpr ⟨nodup_of_eq rs263 (by decide),
  List.forall_mem_cons.mpr ⟨nodup_of_eq rs264 (by decide),
  List.forall_mem_cons.mpr ⟨nodup_of_eq rs265 (by decide),
  List.forall_mem_cons.mpr ⟨nodup_of_eq rs266 (by decide),
  List.forall_mem_cons.mpr ⟨nodup_of_eq rs267 (by decide),
  List.forall_mem_cons.mpr ⟨nodup_of_eq rs268 (by decide),
  List.forall_mem_cons.mpr ⟨nodup_of_eq rs269 (by decide),
  ntl27⟩⟩⟩⟩⟩⟩⟩⟩⟩⟩


lemma ntl25 : ∀ s ∈ ([['Y', 'B', 'P', 'O'],
      ['Y', 'B', 'P', 'R'],
      ['Y', 'G', 'B', 'O'],
      ['Y', 'G', 'B', 'R'],
      ['Y', 'G', 'B', 'P'],
      ['Y', 'G', 'O', 'B'],
      ['Y', 'G', 'O', 'R'],
      ['Y', 'G', 'O', 'P'],
      ['Y', 'G', 'R', 'B'],
      ['Y', 'G', 'R', 'O'],
      ['Y', 'G', 'R', 'P'],
      ['Y', 'G', 'P', 'B'],
      ['Y', 'G', 'P', 'O'],
      ['Y', 'G', 'P', 'R'],
      ['Y', 'O', 'B', 'G'],
      ['Y', 'O', 'B', 'R'],
      ['Y', 'O', 'B', 'P'],
      ['Y', 'O', 'G', 'B'],
      ['Y', 'O', 'G', 'R'],
      ['Y', 'O', 'G', 'P'],
      ['Y', 'O', 'R', 'B'],
      ['Y', 'O', 'R', 'G'],
      ['Y', 'O', 'R', 'P'],
      ['Y', 'O', 'P', 'B'],
      ['Y', 'O', 'P', 'G'],
      ['Y', 'O', 'P', 'R'],
      ['Y', 'R', 'B', 'G'],
      ['Y', 'R', 'B', 'O'],
      ['Y', 'R', 'B', 'P'],
      ['Y', 'R', 'G', 'B'],
      ['Y', 'R', 'G', 'O'],
      ['Y', 'R', 'G', 'P'],
      ['Y', 'R', 'O', 'B'],
      ['Y', 'R', 'O', 'G'],
      ['Y', 'R', 'O', 'P'],
      ['Y', 'R', 'P', 'B'],
      ['Y', 'R', 'P', 'G'],
      ['Y', 'R', 'P', 'O'],
      ['Y', 'P', 'B', 'G'],
      ['Y', 'P', 'B', 'O'],
      ['Y', 'P', 'B', 'R'],
      ['Y', 'P', 'G', 'B'],
      ['Y', 'P', 'G', 'O'],
      ['Y', 'P', 'G', 'R'],
      ['Y', 'P', 'O', 'B'],
      ['Y', 'P', 'O', 'G'],
      ['Y', 'P', 'O', 'R'],
      ['Y', 'P', 'R', 'B'],
      ['Y', 'P', 'R', 'G'],
      ['Y', 'P', 'R', 'O'],
      ['P', 'B', 'G', 'O'],
      ['P', 'B', 'G', 'R'],
      ['P', 'B', 'G', 'Y'],
      ['P', 'B', 'O', 'G'],
      ['P', 'B', 'O', 'R'],
      ['P', 'B', 'O', 'Y'],
      ['P', 'B', 'R', 'G'],
      ['P', 'B', 'R', 'O'],
      ['P', 'B', 'R', 'Y'],
      ['P', 'B', 'Y', 'G'],
      ['P', 'B', 'Y', 'O'],
      ['P', 'B', 'Y', 'R'],
      ['P', 'G', 'B', 'O'],
      ['P', 'G', 'B', 'R'],
      ['P', 'G', 'B', 'Y'],
      ['P', 'G', 'O', 'B'],
      ['P', 'G', 'O', 'R'],
      ['P', 'G', 'O', 'Y'],
      ['P', 'G', 'R', 'B'],
      ['P', 'G', 'R', 'O'],
      ['P', 'G', 'R', 'Y'],
      ['P', 'G', 'Y', 'B'],
      ['P', 'G', 'Y', 'O'],
      ['P', 'G', 'Y', 'R'],
      ['P', 'O', 'B', 'G'],
      ['P', 'O', 'B', 'R'],
      ['P', 'O', 'B', 'Y'],
      ['P', 'O', 'G', 'B'],
      ['P', 'O', 'G', 'R'],
      ['P', 'O', 'G', 'Y'],
      ['P', 'O', 'R', 'B'],
      ['P', 'O', 'R', 'G'],
      ['P', 'O', 'R', 'Y'],
      ['P', 'O', 'Y', 'B'],
      ['P', 'O', 'Y', 'G'],
      ['P', 'O', 'Y', 'R'],
      ['P', 'R', 'B', 'G'],
      ['P', 'R', 'B', 'O'],
      ['P', 'R', 'B', 'Y'],
      ['P', 'R', 'G', 'B'],
      ['P', 'R', 'G', 'O'],
      ['P', 'R', 'G', 'Y'],
      ['P', 'R', 'O', 'B'],
      ['P', 'R', 'O', 'G'],
      ['P', 'R', 'O', 'Y'],
      ['P', 'R', 'Y', 'B'],
      ['P', 'R', 'Y', 'G'],
      ['P', 'R', 'Y', 'O'],
      ['P', 'Y', 'B', 'G'],
      ['P', 'Y', 'B', 'O'],
      ['P', 'Y', 'B', 'R'],
      ['P', 'Y', 'G', 'B'],
      ['P', 'Y', 'G', 'O'],
      ['P', 'Y', 'G', 'R'],
      ['P', 'Y', 'O', 'B'],
      ['P', 'Y', 'O', 'G'],
      ['P', 'Y', 'O', 'R'],
      ['P', 'Y', 'R', 'B'],
      ['P', 'Y', 'R', 'G'],
      ['P', 'Y', 'R', 'O']] : List Code),
    (loopRun (honest s) 7 none S0 []).2.Nodup :=
  List.forall_mem_cons.mpr ⟨nodup_of_eq rs250 (by decide),
  List.forall_mem_cons.mpr ⟨nodup_of_eq rs251 (by decide),
  List.forall_mem_cons.mpr ⟨nodup_of_eq rs252 (by decide),
  List.forall_mem_cons.mpr ⟨nodup_of_eq rs253 (by decide),
  List.forall_mem_cons.mpr ⟨nodup_of_eq rs254 (by decide),
  List.forall_mem_cons.mpr ⟨nodup_of_eq rs255 (by decide),
  List.forall_mem_cons.mpr ⟨nodup_of_eq rs256 (by decide),
  List.forall_mem_cons.mpr ⟨nodup_of_eq rs257 (by decide),
  List.forall_mem_cons.mpr ⟨nodup_of_eq rs258 (by decide),
  List.forall_mem_cons.mpr ⟨nodup_of_eq rs259 (by decide),
  ntl26⟩⟩⟩⟩⟩⟩⟩⟩⟩⟩


lemma ntl24 : ∀ s ∈ ([['Y', 'B', 'G', 'O'],
      ['Y', 'B', 'G', 'R'],
      ['Y', 'B', 'G', 'P'],
      ['Y', 'B', 'O', 'G'],
      ['Y', 'B', 'O', 'R'],
      ['Y', 'B', 'O', 'P'],
      ['Y', 'B', 'R', 'G'],
      ['Y', 'B', 'R', 'O'],
      ['Y', 'B', 'R', 'P'],
      ['Y', 'B', 'P', 'G'],
      ['Y', 'B', 'P', 'O'],
      ['Y', 'B', 'P', 'R'],
      ['Y', 'G', 'B', 'O'],
      ['Y', 'G', 'B', 'R'],
      ['Y', 'G', 'B', 'P'],
      ['Y', 'G', 'O', 'B'],
      ['Y', 'G', 'O', 'R'],
      ['Y', 'G', 'O', 'P'],
      ['Y', 'G', 'R', 'B'],
      ['Y', 'G', 'R', 'O'],
      ['Y', 'G', 'R', 'P'],
      ['Y', 'G', 'P', 'B'],
      ['Y', 'G', 'P', 'O'],
      ['Y', 'G', 'P', 'R'],
      ['Y', 'O', 'B', 'G'],
      ['Y', 'O', 'B', 'R'],
      ['Y', 'O', 'B', 'P'],
      ['Y', 'O', 'G', 'B'],
      ['Y', 'O', 'G', 'R'],
      ['Y', 'O', 'G', 'P'],
      ['Y', 'O', 'R', 'B'],
      ['Y', 'O', 'R', 'G'],
      ['Y', 'O', 'R', 'P'],
      ['Y', 'O', 'P', 'B'],
      ['Y', 'O', 'P', 'G'],
      ['Y', 'O', 'P', 'R'],
      ['Y', 'R', 'B', 'G'],
      ['Y', 'R', 'B', 'O'],
      ['Y', 'R', 'B', 'P'],
      ['Y', 'R', 'G', 'B'],
      ['Y', 'R', 'G', 'O'],
      ['Y', 'R', 'G', 'P'],
      ['Y', 'R', 'O', 'B'],
      ['Y', 'R', 'O', 'G'],
      ['Y', 'R', 'O', 'P'],
      ['Y', 'R', 'P', 'B'],
      ['Y', 'R', 'P', 'G'],
      ['Y', 'R', 'P', 'O'],
      ['Y', 'P', 'B', 'G'],
      ['Y', 'P', 'B', 'O'],
      ['Y', 'P', 'B', 'R'],
      ['Y', 'P', 'G', 'B'],
      ['Y', 'P', 'G', 'O'],
      ['Y', 'P', 'G', 'R'],
      ['Y', 'P', 'O', 'B'],
      ['Y', 'P', 'O', 'G'],
      ['Y', 'P', 'O', 'R'],
      ['Y', 'P', 'R', 'B'],
      ['Y', 'P', 'R', 'G'],
      ['Y', 'P', 'R', 'O'],
      ['P', 'B', 'G', 'O'],
      ['P', 'B', 'G', 'R'],
      ['P', 'B', 'G', 'Y'],
      ['P', 'B', 'O', 'G'],
      ['P', 'B', 'O', 'R'],
      ['P', 'B', 'O', 'Y'],
      ['P', 'B', 'R', 'G'],
      ['P', 'B', 'R', 'O'],
      ['P', 'B', 'R', 'Y'],
      ['P', 'B', 'Y', 'G'],
      ['P', 'B', 'Y', 'O'],
      ['P', 'B', 'Y', 'R'],
      ['P', 'G', 'B', 'O'],
      ['P', 'G', 'B', 'R'],
      ['P', 'G', 'B', 'Y'],
      ['P', 'G', 'O', 'B'],
      ['P', 'G', 'O', 'R'],
      ['P', 'G', 'O', 'Y'],
      ['P', 'G', 'R', 'B'],
      ['P', 'G', 'R', 'O'],
      ['P', 'G', 'R', 'Y'],
      ['P', 'G', 'Y', 'B'],
      ['P', 'G', 'Y', 'O'],
      ['P', 'G', 'Y', 'R'],
      ['P', 'O', 'B', 'G'],
      ['P', 'O', 'B', 'R'],
      ['P', 'O', 'B', 'Y'],
      ['P', 'O', 'G', 'B'],
      ['P', 'O', 'G', 'R'],
      ['P', 'O', 'G', 'Y'],
      ['P', 'O', 'R', 'B'],
      ['P', 'O', 'R', 'G'],
      ['P', 'O', 'R', 'Y'],
      ['P', 'O', 'Y', 'B'],
      ['P', 'O', 'Y', 'G'],
      ['P', 'O', 'Y', 'R'],
      ['P', 'R', 'B', 'G'],
      ['P', 'R', 'B', 'O'],
      ['P', 'R', 'B', 'Y'],
      ['P', 'R', 'G', 'B'],
      ['P', 'R', 'G', 'O'],
      ['P', 'R', 'G', 'Y'],
      ['P', 'R', 'O', 'B'],
      ['P', 'R', 'O', 'G'],
      ['P', 'R', 'O', 'Y'],
      ['P', 'R', 'Y', 'B'],
      ['P', 'R', 'Y', 'G'],
      ['P', 'R', 'Y', 'O'],
      ['P', 'Y', 'B', 'G'],
      ['P', 'Y', 'B', 'O'],
      ['P', 'Y', 'B', 'R'],
      ['P', 'Y', 'G', 'B'],
      ['P', 'Y', 'G', 'O'],
      ['P', 'Y', 'G', 'R'],
      ['P', 'Y', 'O', 'B'],
      ['P', 'Y', 'O', 'G'],
      ['P', 'Y', 'O', 'R'],
      ['P', 'Y', 'R', 'B'],
      ['P', 'Y', 'R', 'G'],
      ['P', 'Y', 'R', 'O']] : List Code),
    (loopRun (honest s) 7 none S0 []).2.Nodup :=
  List.forall_mem_cons.mpr ⟨nodup_of_eq rs240 (by decide),
  List.forall_mem_cons.mpr ⟨nodup_of_eq rs241 (by decide),
  List.forall_mem_cons.mpr ⟨nodup_of_eq rs242 (by decide),
  List.forall_mem_cons.mpr ⟨nodup_of_eq rs243 (by decide),
  List.forall_mem_cons.mpr ⟨nodup_of_eq rs244 (by decide),
  List.forall_mem_cons.mpr ⟨nodup_of_eq rs245 (by decide),
  List.forall_mem_cons.mpr ⟨nodup_of_eq rs246 (by decide),
  List.forall_mem_cons.mpr ⟨nodup_of_eq rs247 (by decide),
  List.forall_mem_cons.mpr ⟨nodup_of_eq rs248 (by decide),
  List.forall_mem_cons.mpr ⟨nodup_of_eq rs249 (by decide),
  ntl25⟩⟩⟩⟩⟩⟩⟩⟩⟩⟩


lemma ntl23 : ∀ s ∈ ([['R', 'P', 'B', 'Y'],
      ['R', 'P', 'G', 'B'],
      ['R', 'P', 'G', 'O'],
      ['R', 'P', 'G', 'Y'],
      ['R', 'P', 'O', 'B'],
      ['R', 'P', 'O', 'G'],
      ['R', 'P', 'O', 'Y'],
      ['R', 'P', 'Y', 'B'],
      ['R', 'P', 'Y', 'G'],
      ['R', 'P', 'Y', 'O'],
      ['Y', 'B', 'G', 'O'],
      ['Y', 'B', 'G', 'R'],
      ['Y', 'B', 'G', 'P'],
      ['Y', 'B', 'O', 'G'],
      ['Y', 'B', 'O', 'R'],
      ['Y', 'B', 'O', 'P'],
      ['Y', 'B', 'R', 'G'],
      ['Y', 'B', 'R', 'O'],
      ['Y', 'B', 'R', 'P'],
      ['Y', 'B', 'P', 'G'],
      ['Y', 'B', 'P', 'O'],
      ['Y', 'B', 'P', 'R'],
      ['Y', 'G', 'B', 'O'],
      ['Y', 'G', 'B', 'R'],
      ['Y', 'G', 'B', 'P'],
      ['Y', 'G', 'O', 'B'],
      ['Y', 'G', 'O', 'R'],
      ['Y', 'G', 'O', 'P'],
      ['Y', 'G', 'R', 'B'],
      ['Y', 'G', 'R', 'O'],
      ['Y', 'G', 'R', 'P'],
      ['Y', 'G', 'P', 'B'],
      ['Y', 'G', 'P', 'O'],
      ['Y', 'G', 'P', 'R'],
      ['Y', 'O', 'B', 'G'],
      ['Y', 'O', 'B', 'R'],
      ['Y', 'O', 'B', 'P'],
      ['Y', 'O', 'G', 'B'],
      ['Y', 'O', 'G', 'R'],
      ['Y', 'O', 'G', 'P'],
      ['Y', 'O', 'R', 'B'],
      ['Y', 'O', 'R', 'G'],
      ['Y', 'O', 'R', 'P'],
      ['Y', 'O', 'P', 'B'],
      ['Y', 'O', 'P', 'G'],
      ['Y', 'O', 'P', 'R'],
      ['Y', 'R', 'B', 'G'],
      ['Y', 'R', 'B', 'O'],
      ['Y', 'R', 'B', 'P'],
      ['Y', 'R', 'G', 'B'],
      ['Y', 'R', 'G', 'O'],
      ['Y', 'R', 'G', 'P'],
      ['Y', 'R', 'O', 'B'],
      ['Y', 'R', 'O', 'G'],
      ['Y', 'R', 'O', 'P'],
      ['Y', 'R', 'P', 'B'],
      ['Y', 'R', 'P', 'G'],
      ['Y', 'R', 'P', 'O'],
      ['Y', 'P', 'B', 'G'],
      ['Y', 'P', 'B', 'O'],
      ['Y', 'P', 'B', 'R'],
      ['Y', 'P', 'G', 'B'],
      ['Y', 'P', 'G', 'O'],
      ['Y', 'P', 'G', 'R'],
      ['Y', 'P', 'O', 'B'],
      ['Y', 'P', 'O', 'G'],
      ['Y', 'P', 'O', 'R'],
      ['Y', 'P', 'R', 'B'],
      ['Y', 'P', 'R', 'G'],
      ['Y', 'P', 'R', 'O'],
      ['P', 'B', 'G', 'O'],
      ['P', 'B', 'G', 'R'],
      ['P', 'B', 'G', 'Y'],
      ['P', 'B', 'O', 'G'],
      ['P', 'B', 'O', 'R'],
      ['P', 'B', 'O', 'Y'],
      ['P', 'B', 'R', 'G'],
      ['P', 'B', 'R', 'O'],
      ['P', 'B', 'R', 'Y'],
      ['P', 'B', 'Y', 'G'],
      ['P', 'B', 'Y', 'O'],
      ['P', 'B', 'Y', 'R'],
      ['P', 'G', 'B', 'O'],
      ['P', 'G', 'B', 'R'],
      ['P', 'G', 'B', 'Y'],
      ['P', 'G', 'O', 'B'],
      ['P', 'G', 'O', 'R'],
      ['P', 'G', 'O', 'Y'],
      ['P', 'G', 'R', 'B'],
      ['P', 'G', 'R', 'O'],
      ['P', 'G', 'R', 'Y'],
      ['P', 'G', 'Y', 'B'],
      ['P', 'G', 'Y', 'O'],
      ['P', 'G', 'Y', 'R'],
      ['P', 'O', 'B', 'G'],
      ['P', 'O', 'B', 'R'],
      ['P', 'O', 'B', 'Y'],
      ['P', 'O', 'G', 'B'],
      ['P', 'O', 'G', 'R'],
      ['P', 'O', 'G', 'Y'],
      ['P', 'O', 'R', 'B'],
      ['P', 'O', 'R', 'G'],
      ['P', 'O', 'R', 'Y'],
      ['P', 'O', 'Y', 'B'],
      ['P', 'O', 'Y', 'G'],
      ['P', 'O', 'Y', 'R'],
      ['P', 'R', 'B', 'G'],
      ['P', 'R', 'B', 'O'],
      ['P', 'R', 'B', 'Y'],
      ['P', 'R', 'G', 'B'],
      ['P', 'R', 'G', 'O'],
      ['P', 'R', 'G', 'Y'],
      ['P', 'R', 'O', 'B'],
      ['P', 'R', 'O', 'G'],
      ['P', 'R', 'O', 'Y'],
      ['P', 'R', 'Y', 'B'],
      ['P', 'R', 'Y', 'G'],
      ['P', 'R', 'Y', 'O'],
      ['P', 'Y', 'B', 'G'],
      ['P', 'Y', 'B', 'O'],
      ['P', 'Y', 'B', 'R'],
      ['P', 'Y', 'G', 'B'],
      ['P', 'Y', 'G', 'O'],
      ['P', 'Y', 'G', 'R'],
      ['P', 'Y', 'O', 'B'],
      ['P', 'Y', 'O', 'G'],
      ['P', 'Y', 'O', 'R'],
      ['P', 'Y', 'R', 'B'],
      ['P', 'Y', 'R', 'G'],
      ['P', 'Y', 'R', 'O']] : List Code),
    (loopRun (honest s) 7 none S0 []).2.Nodup :=
  List.forall_mem_cons.mpr ⟨nodup_of_eq rs230 (by decide),
  List.forall_mem_cons.mpr ⟨nodup_of_eq rs231 (by decide),
  List.forall_mem_cons.mpr ⟨nodup_of_eq rs232 (by decide),
  List.forall_mem_cons.mpr ⟨nodup_of_eq rs233 (by decide),
  List.forall_mem_cons.mpr ⟨nodup_of_eq rs234 (by decide),
  List.forall_mem_cons.mpr ⟨nodup_of_eq rs235 (by decide),
  List.forall_mem_cons.mpr ⟨nodup_of_eq rs236 (by decide),
  List.forall_mem_cons.mpr ⟨nodup_of_eq rs237 (by decide),
  List.forall_mem_cons.mpr ⟨nodup_of_eq rs238 (by decide),
  List.forall_mem_cons.mpr ⟨nodup_of_eq rs239 (by decide),
  ntl24⟩⟩⟩⟩⟩⟩⟩⟩⟩⟩


lemma ntl22 : ∀ s ∈ ([['R', 'Y', 'G', 'O'],
      ['R', 'Y', 'G', 'P'],
      ['R', 'Y', 'O', 'B'],
      ['R', 'Y', 'O', 'G'],
      ['R', 'Y', 'O', 'P'],
      ['R', 'Y', 'P', 'B'],
      ['R', 'Y', 'P', 'G'],
      ['R', 'Y', 'P', 'O'],
      ['R', 'P', 'B', 'G'],
      ['R', 'P', 'B', 'O'],
      ['R', 'P', 'B', 'Y'],
      ['R', 'P', 'G', 'B'],
      ['R', 'P', 'G', 'O'],
      ['R', 'P', 'G', 'Y'],
      ['R', 'P', 'O', 'B'],
      ['R', 'P', 'O', 'G'],
      ['R', 'P', 'O', 'Y'],
      ['R', 'P', 'Y', 'B'],
      ['R', 'P', 'Y', 'G'],
      ['R', 'P', 'Y', 'O'],
      ['Y', 'B', 'G', 'O'],
      ['Y', 'B', 'G', 'R'],
      ['Y', 'B', 'G', 'P'],
      ['Y', 'B', 'O', 'G'],
      ['Y', 'B', 'O', 'R'],
      ['Y', 'B', 'O', 'P'],
      ['Y', 'B', 'R', 'G'],
      ['Y', 'B', 'R', 'O'],
      ['Y', 'B', 'R', 'P'],
      ['Y', 'B', 'P', 'G'],
      ['Y', 'B', 'P', 'O'],
      ['Y', 'B', 'P', 'R'],
      ['Y', 'G', 'B', 'O'],
      ['Y', 'G', 'B', 'R'],
      ['Y', 'G', 'B', 'P'],
      ['Y', 'G', 'O', 'B'],
      ['Y', 'G', 'O', 'R'],
      ['Y', 'G', 'O', 'P'],
      ['Y', 'G', 'R', 'B'],
      ['Y', 'G', 'R', 'O'],
      ['Y', 'G', 'R', 'P'],
      ['Y', 'G', 'P', 'B'],
      ['Y', 'G', 'P', 'O'],
      ['Y', 'G', 'P', 'R'],
      ['Y', 'O', 'B', 'G'],
      ['Y', 'O', 'B', 'R'],
      ['Y', 'O', 'B', 'P'],
      ['Y', 'O', 'G', 'B'],
      ['Y', 'O', 'G', 'R'],
      ['Y', 'O', 'G', 'P'],
      ['Y', 'O', 'R', 'B'],
      ['Y', 'O', 'R', 'G'],
      ['Y', 'O', 'R', 'P'],
      ['Y', 'O', 'P', 'B'],
      ['Y', 'O', 'P', 'G'],
      ['Y', 'O', 'P', 'R'],
      ['Y', 'R', 'B', 'G'],
      ['Y', 'R', 'B', 'O'],
      ['Y', 'R', 'B', 'P'],
      ['Y', 'R', 'G', 'B'],
      ['Y', 'R', 'G', 'O'],
      ['Y', 'R', 'G', 'P'],
      ['Y', 'R', 'O', 'B'],
      ['Y', 'R', 'O', 'G'],
      ['Y', 'R', 'O', 'P'],
      ['Y', 'R', 'P', 'B'],
      ['Y', 'R', 'P', 'G'],
      ['Y', 'R', 'P', 'O'],
      ['Y', 'P', 'B', 'G'],
      ['Y', 'P', 'B', 'O'],
      ['Y', 'P', 'B', 'R'],
      ['Y', 'P', 'G', 'B'],
      ['Y', 'P', 'G', 'O'],
      ['Y', 'P', 'G', 'R'],
      ['Y', 'P', 'O', 'B'],
      ['Y', 'P', 'O', 'G'],
      ['Y', 'P', 'O', 'R'],
      ['Y', 'P', 'R', 'B'],
      ['Y', 'P', 'R', 'G'],
      ['Y', 'P', 'R', 'O'],
      ['P', 'B', 'G', 'O'],
      ['P', 'B', 'G', 'R'],
      ['P', 'B', 'G', 'Y'],
      ['P', 'B', 'O', 'G'],
      ['P', 'B', 'O', 'R'],
      ['P', 'B', 'O', 'Y'],
      ['P', 'B', 'R', 'G'],
      ['P', 'B', 'R', 'O'],
      ['P', 'B', 'R', 'Y'],
      ['P', 'B', 'Y', 'G'],
      ['P', 'B', 'Y', 'O'],
      ['P', 'B', 'Y', 'R'],
      ['P', 'G', 'B', 'O'],
      ['P', 'G', 'B', 'R'],
      ['P', 'G', 'B', 'Y'],
      ['P', 'G', 'O', 'B'],
      ['P', 'G', 'O', 'R'],
      ['P', 'G', 'O', 'Y'],
      ['P', 'G', 'R', 'B'],
      ['P', 'G', 'R', 'O'],
      ['P', 'G', 'R', 'Y'],
      ['P', 'G', 'Y', 'B'],
      ['P', 'G', 'Y', 'O'],
      ['P', 'G', 'Y', 'R'],
      ['P', 'O', 'B', 'G'],
      ['P', 'O', 'B', 'R'],
      ['P', 'O', 'B', 'Y'],
      ['P', 'O', 'G', 'B'],
      ['P', 'O', 'G', 'R'],
      ['P', 'O', 'G', 'Y'],
      ['P', 'O', 'R', 'B'],
      ['P', 'O', 'R', 'G'],
      ['P', 'O', 'R', 'Y'],
      ['P', 'O', 'Y', 'B'],
      ['P', 'O', 'Y', 'G'],
      ['P', 'O', 'Y', 'R'],
      ['P', 'R', 'B', 'G'],
      ['P', 'R', 'B', 'O'],
      ['P', 'R', 'B', 'Y'],
      ['P', 'R', 'G', 'B'],
      ['P', 'R', 'G', 'O'],
      ['P', 'R', 'G', 'Y'],
      ['P', 'R', 'O', 'B'],
      ['P', 'R', 'O', 'G'],
      ['P', 'R', 'O', 'Y'],
      ['P', 'R', 'Y', 'B'],
      ['P', 'R', 'Y', 'G'],
      ['P', 'R', 'Y', 'O'],
      ['P', 'Y', 'B', 'G'],
      ['P', 'Y', 'B', 'O'],
      ['P', 'Y', 'B', 'R'],
      ['P', 'Y', 'G', 'B'],
      ['P', 'Y', 'G', 'O'],
      ['P', 'Y', 'G', 'R'],
      ['P', 'Y', 'O', 'B'],
      ['P', 'Y', 'O', 'G'],
      ['P', 'Y', 'O', 'R'],
      ['P', 'Y', 'R', 'B'],
      ['P', 'Y', 'R', 'G'],
      ['P', 'Y', 'R', 'O']] : List Code),
    (loopRun (honest s) 7 none S0 []).2.Nodup :=
  List.forall_mem_cons.mpr ⟨nodup_of_eq rs220 (by decide),
  List.forall_mem_cons.mpr ⟨nodup_of_eq rs221 (by decide),
  List.forall_mem_cons.mpr ⟨nodup_of_eq rs222 (by decide),
  List.forall_mem_cons.mpr ⟨nodup_of_eq rs223 (by decide),
  List.forall_mem_cons.mpr ⟨nodup_of_eq rs224 (by decide),
  List.forall_mem_cons.mpr ⟨nodup_of_eq rs225 (by decide),
  List.forall_mem_cons.mpr ⟨nodup_of_eq rs226 (by decide),
  List.forall_mem_cons.mpr ⟨nodup_of_eq rs227 (by decide),
  List.forall_mem_cons.mpr ⟨nodup_of_eq rs228 (by decide),
  List.forall_mem_cons.mpr ⟨nodup_of_eq rs229 (by decide),
  ntl23⟩⟩⟩⟩⟩⟩⟩⟩⟩⟩


lemma ntl21 : ∀ s ∈ ([['R', 'O', 'Y', 'B'],
      ['R', 'O', 'Y', 'G'],
      ['R', 'O', 'Y', 'P'],
      ['R', 'O', 'P', 'B'],
      ['R', 'O', 'P', 'G'],
      ['R', 'O', 'P', 'Y'],
      ['R', 'Y', 'B', 'G'],
      ['R', 'Y', 'B', 'O'],
      ['R', 'Y', 'B', 'P'],
      ['R', 'Y', 'G', 'B'],
      ['R', 'Y', 'G', 'O'],
      ['R', 'Y', 'G', 'P'],
      ['R', 'Y', 'O', 'B'],
      ['R', 'Y', 'O', 'G'],
      ['R', 'Y', 'O', 'P'],
      ['R', 'Y', 'P', 'B'],
      ['R', 'Y', 'P', 'G'],
      ['R', 'Y', 'P', 'O'],
      ['R', 'P', 'B', 'G'],
      ['R', 'P', 'B', 'O'],
      ['R', 'P', 'B', 'Y'],
      ['R', 'P', 'G', 'B'],
      ['R', 'P', 'G', 'O'],
      ['R', 'P', 'G', 'Y'],
      ['R', 'P', 'O', 'B'],
      ['R', 'P', 'O', 'G'],
      ['R', 'P', 'O', 'Y'],
      ['R', 'P', 'Y', 'B'],
      ['R', 'P', 'Y', 'G'],
      ['R', 'P', 'Y', 'O'],
      ['Y', 'B', 'G', 'O'],
      ['Y', 'B', 'G', 'R'],
      ['Y', 'B', 'G', 'P'],
      ['Y', 'B', 'O', 'G'],
      ['Y', 'B', 'O', 'R'],
      ['Y', 'B', 'O', 'P'],
      ['Y', 'B', 'R', 'G'],
      ['Y', 'B', 'R', 'O'],
      ['Y', 'B', 'R', 'P'],
      ['Y', 'B', 'P', 'G'],
      ['Y', 'B', 'P', 'O'],
      ['Y', 'B', 'P', 'R'],
      ['Y', 'G', 'B', 'O'],
      ['Y', 'G', 'B', 'R'],
      ['Y', 'G', 'B', 'P'],
      ['Y', 'G', 'O', 'B'],
      ['Y', 'G', 'O', 'R'],
      ['Y', 'G', 'O', 'P'],
      ['Y', 'G', 'R', 'B'],
      ['Y', 'G', 'R', 'O'],
      ['Y', 'G', 'R', 'P'],
      ['Y', 'G', 'P', 'B'],
      ['Y', 'G', 'P', 'O'],
      ['Y', 'G', 'P', 'R'],
      ['Y', 'O', 'B', 'G'],
      ['Y', 'O', 'B', 'R'],
      ['Y', 'O', 'B', 'P'],
      ['Y', 'O', 'G', 'B'],
      ['Y', 'O', 'G', 'R'],
      ['Y', 'O', 'G', 'P'],
      ['Y', 'O', 'R', 'B'],
      ['Y', 'O', 'R', 'G'],
      ['Y', 'O', 'R', 'P'],
      ['Y', 'O', 'P', 'B'],
      ['Y', 'O', 'P', 'G'],
      ['Y', 'O', 'P', 'R'],
      ['Y', 'R', 'B', 'G'],
      ['Y', 'R', 'B', 'O'],
      ['Y', 'R', 'B', 'P'],
      ['Y', 'R', 'G', 'B'],
      ['Y', 'R', 'G', 'O'],
      ['Y', 'R', 'G', 'P'],
      ['Y', 'R', 'O', 'B'],
      ['Y', 'R', 'O', 'G'],
      ['Y', 'R', 'O', 'P'],
      ['Y', 'R', 'P', 'B'],
      ['Y', 'R', 'P', 'G'],
      ['Y', 'R', 'P', 'O'],
      ['Y', 'P', 'B', 'G'],
      ['Y', 'P', 'B', 'O'],
      ['Y', 'P', 'B', 'R'],
      ['Y', 'P', 'G', 'B'],
      ['Y', 'P', 'G', 'O'],
      ['Y', 'P', 'G', 'R'],
      ['Y', 'P', 'O', 'B'],
      ['Y', 'P', 'O', 'G'],
      ['Y', 'P', 'O', 'R'],
      ['Y', 'P', 'R', 'B'],
      ['Y', 'P', 'R', 'G'],
      ['Y', 'P', 'R', 'O'],
      ['P', 'B', 'G', 'O'],
      ['P', 'B', 'G', 'R'],
      ['P', 'B', 'G', 'Y'],
      ['P', 'B', 'O', 'G'],
      ['P', 'B', 'O', 'R'],
      ['P', 'B', 'O', 'Y'],
      ['P', 'B', 'R', 'G'],
      ['P', 'B', 'R', 'O'],
      ['P', 'B', 'R', 'Y'],
      ['P', 'B', 'Y', 'G'],
      ['P', 'B', 'Y', 'O'],
      ['P', 'B', 'Y', 'R'],
      ['P', 'G', 'B', 'O'],
      ['P', 'G', 'B', 'R'],
      ['P', 'G', 'B', 'Y'],
      ['P', 'G', 'O', 'B'],
      ['P', 'G', 'O', 'R'],
      ['P', 'G', 'O', 'Y'],
      ['P', 'G', 'R', 'B'],
      ['P', 'G', 'R', 'O'],
      ['P', 'G', 'R', 'Y'],
      ['P', 'G', 'Y', 'B'],
      ['P', 'G', 'Y', 'O'],
      ['P', 'G', 'Y', 'R'],
      ['P', 'O', 'B', 'G'],
      ['P', 'O', 'B', 'R'],
      ['P', 'O', 'B', 'Y'],
      ['P', 'O', 'G', 'B'],
      ['P', 'O', 'G', 'R'],
      ['P', 'O', 'G', 'Y'],
      ['P', 'O', 'R', 'B'],
      ['P', 'O', 'R', 'G'],
      ['P', 'O', 'R', 'Y'],
      ['P', 'O', 'Y', 'B'],
      ['P', 'O', 'Y', 'G'],
      ['P', 'O', 'Y', 'R'],
      ['P', 'R', 'B', 'G'],
      ['P', 'R', 'B', 'O'],
      ['P', 'R', 'B', 'Y'],
      ['P', 'R', 'G', 'B'],
      ['P', 'R', 'G', 'O'],
      ['P', 'R', 'G', 'Y'],
      ['P', 'R', 'O', 'B'],
      ['P', 'R', 'O', 'G'],
      ['P', 'R', 'O', 'Y'],
      ['P', 'R', 'Y', 'B'],
      ['P', 'R', 'Y', 'G'],
      ['P', 'R', 'Y', 'O'],
      ['P', 'Y', 'B', 'G'],
      ['P', 'Y', 'B', 'O'],
      ['P', 'Y', 'B', 'R'],
      ['P', 'Y', 'G', 'B'],
      ['P', 'Y', 'G', 'O'],
      ['P', 'Y', 'G', 'R'],
      ['P', 'Y', 'O', 'B'],
      ['P', 'Y', 'O', 'G'],
      ['P', 'Y', 'O', 'R'],
      ['P', 'Y', 'R', 'B'],
      ['P', 'Y', 'R', 'G'],
      ['P', 'Y', 'R', 'O']] : List Code),
    (loopRun (honest s) 7 none S0 []).2.Nodup :=
  List.forall_mem_cons.mpr ⟨nodup_of_eq rs210 (by decide),
  List.forall_mem_cons.mpr ⟨nodup_of_eq rs211 (by decide),
  List.forall_mem_cons.mpr ⟨nodup_of_eq rs212 (by decide),
  List.forall_mem_cons.mpr ⟨nodup_of_eq rs213 (by decide),
  List.forall_mem_cons.mpr ⟨nodup_of_eq rs214 (by decide),
  List.forall_mem_cons.mpr ⟨nodup_of_eq rs215 (by decide),
  List.forall_mem_cons.mpr ⟨nodup_of_eq rs216 (by decide),
  List.forall_mem_cons.mpr ⟨nodup_of_eq rs217 (by decide),
  List.forall_mem_cons.mpr ⟨nodup_of_eq rs218 (by decide),
  List.forall_mem_cons.mpr ⟨nodup_of_eq rs219 (by decide),
  ntl22⟩⟩⟩⟩⟩⟩⟩⟩⟩⟩


lemma ntl20 : ∀ s ∈ ([['R', 'G', 'Y', 'P'],
      ['R', 'G', 'P', 'B'],
      ['R', 'G', 'P', 'O'],
      ['R', 'G', 'P', 'Y'],
      ['R', 'O', 'B', 'G'],
      ['R', 'O', 'B', 'Y'],
      ['R', 'O', 'B', 'P'],
      ['R', 'O', 'G', 'B'],
      ['R', 'O', 'G', 'Y'],
      ['R', 'O', 'G', 'P'],
      ['R', 'O', 'Y', 'B'],
      ['R', 'O', 'Y', 'G'],
      ['R', 'O', 'Y', 'P'],
      ['R', 'O', 'P', 'B'],
      ['R', 'O', 'P', 'G'],
      ['R', 'O', 'P', 'Y'],
      ['R', 'Y', 'B', 'G'],
      ['R', 'Y', 'B', 'O'],
      ['R', 'Y', 'B', 'P'],
      ['R', 'Y', 'G', 'B'],
      ['R', 'Y', 'G', 'O'],
      ['R', 'Y', 'G', 'P'],
      ['R', 'Y', 'O', 'B'],
      ['R', 'Y', 'O', 'G'],
      ['R', 'Y', 'O', 'P'],
      ['R', 'Y', 'P', 'B'],
      ['R', 'Y', 'P', 'G'],
      ['R', 'Y', 'P', 'O'],
      ['R', 'P', 'B', 'G'],
      ['R', 'P', 'B', 'O'],
      ['R', 'P', 'B', 'Y'],
      ['R', 'P', 'G', 'B'],
      ['R', 'P', 'G', 'O'],
      ['R', 'P', 'G', 'Y'],
      ['R', 'P', 'O', 'B'],
      ['R', 'P', 'O', 'G'],
      ['R', 'P', 'O', 'Y'],
      ['R', 'P', 'Y', 'B'],
      ['R', 'P', 'Y', 'G'],
      ['R', 'P', 'Y', 'O'],
      ['Y', 'B', 'G', 'O'],
      ['Y', 'B', 'G', 'R'],
      ['Y', 'B', 'G', 'P'],
      ['Y', 'B', 'O', 'G'],
      ['Y', 'B', 'O', 'R'],
      ['Y', 'B', 'O', 'P'],
      ['Y', 'B', 'R', 'G'],
      ['Y', 'B', 'R', 'O'],
      ['Y', 'B', 'R', 'P'],
      ['Y', 'B', 'P', 'G'],
      ['Y', 'B', 'P', 'O'],
      ['Y', 'B', 'P', 'R'],
      ['Y', 'G', 'B', 'O'],
      ['Y', 'G', 'B', 'R'],
      ['Y', 'G', 'B', 'P'],
      ['Y', 'G', 'O', 'B'],
      ['Y', 'G', 'O', 'R'],
      ['Y', 'G', 'O', 'P'],
      ['Y', 'G', 'R', 'B'],
      ['Y', 'G', 'R', 'O'],
      ['Y', 'G', 'R', 'P'],
      ['Y', 'G', 'P', 'B'],
      ['Y', 'G', 'P', 'O'],
      ['Y', 'G', 'P', 'R'],
      ['Y', 'O', 'B', 'G'],
      ['Y', 'O', 'B', 'R'],
      ['Y', 'O', 'B', 'P'],
      ['Y', 'O', 'G', 'B'],
      ['Y', 'O', 'G', 'R'],
      ['Y', 'O', 'G', 'P'],
      ['Y', 'O', 'R', 'B'],
      ['Y', 'O', 'R', 'G'],
      ['Y', 'O', 'R', 'P'],
      ['Y', 'O', 'P', 'B'],
      ['Y', 'O', 'P', 'G'],
      ['Y', 'O', 'P', 'R'],
      ['Y', 'R', 'B', 'G'],
      ['Y', 'R', 'B', 'O'],
      ['Y', 'R', 'B', 'P'],
      ['Y', 'R', 'G', 'B'],
      ['Y', 'R', 'G', 'O'],
      ['Y', 'R', 'G', 'P'],
      ['Y', 'R', 'O', 'B'],
      ['Y', 'R', 'O', 'G'],
      ['Y', 'R', 'O', 'P'],
      ['Y', 'R', 'P', 'B'],
      ['Y', 'R', 'P', 'G'],
      ['Y', 'R', 'P', 'O'],
      ['Y', 'P', 'B', 'G'],
      ['Y', 'P', 'B', 'O'],
      ['Y', 'P', 'B', 'R'],
      ['Y', 'P', 'G', 'B'],
      ['Y', 'P', 'G', 'O'],
      ['Y', 'P', 'G', 'R'],
      ['Y', 'P', 'O', 'B'],
      ['Y', 'P', 'O', 'G'],
      ['Y', 'P', 'O', 'R'],
      ['Y', 'P', 'R', 'B'],
      ['Y', 'P', 'R', 'G'],
      ['Y', 'P', 'R', 'O'],
      ['P', 'B', 'G', 'O'],
      ['P', 'B', 'G', 'R'],
      ['P', 'B', 'G', 'Y'],
      ['P', 'B', 'O', 'G'],
      ['P', 'B', 'O', 'R'],
      ['P', 'B', 'O', 'Y'],
      ['P', 'B', 'R', 'G'],
      ['P', 'B', 'R', 'O'],
      ['P', 'B', 'R', 'Y'],
      ['P', 'B', 'Y', 'G'],
      ['P', 'B', 'Y', 'O'],
      ['P', 'B', 'Y', 'R'],
      ['P', 'G', 'B', 'O'],
      ['P', 'G', 'B', 'R'],
      ['P', 'G', 'B', 'Y'],
      ['P', 'G', 'O', 'B'],
      ['P', 'G', 'O', 'R'],
      ['P', 'G', 'O', 'Y'],
      ['P', 'G', 'R', 'B'],
      ['P', 'G', 'R', 'O'],
      ['P', 'G', 'R', 'Y'],
      ['P', 'G', 'Y', 'B'],
      ['P', 'G', 'Y', 'O'],
      ['P', 'G', 'Y', 'R'],
      ['P', 'O', 'B', 'G'],
      ['P', 'O', 'B', 'R'],
      ['P', 'O', 'B', 'Y'],
      ['P', 'O', 'G', 'B'],
      ['P', 'O', 'G', 'R'],
      ['P', 'O', 'G', 'Y'],
      ['P', 'O', 'R', 'B'],
      ['P', 'O', 'R', 'G'],
      ['P', 'O', 'R', 'Y'],
      ['P', 'O', 'Y', 'B'],
      ['P', 'O', 'Y', 'G'],
      ['P', 'O', 'Y', 'R'],
      ['P', 'R', 'B', 'G'],
      ['P', 'R', 'B', 'O'],
      ['P', 'R', 'B', 'Y'],
      ['P', 'R', 'G', 'B'],
      ['P', 'R', 'G', 'O'],
      ['P', 'R', 'G', 'Y'],
      ['P', 'R', 'O', 'B'],
      ['P', 'R', 'O', 'G'],
      ['P', 'R', 'O', 'Y'],
      ['P', 'R', 'Y', 'B'],
      ['P', 'R', 'Y', 'G'],
      ['P', 'R', 'Y', 'O'],
      ['P', 'Y', 'B', 'G'],
      ['P', 'Y', 'B', 'O'],
      ['P', 'Y', 'B', 'R'],
      ['P', 'Y', 'G', 'B'],
      ['P', 'Y', 'G', 'O'],
      ['P', 'Y', 'G', 'R'],
      ['P', 'Y', 'O', 'B'],
      ['P', 'Y', 'O', 'G'],
      ['P', 'Y', 'O', 'R'],
      ['P', 'Y', 'R', 'B'],
      ['P', 'Y', 'R', 'G'],
      ['P', 'Y', 'R', 'O']] : List Code),
    (loopRun (honest s) 7 none S0 []).2.Nodup :=
  List.forall_mem_cons.mpr ⟨nodup_of_eq rs200 (by decide),
  List.forall_mem_cons.mpr ⟨nodup_of_eq rs201 (by decide),
  List.forall_mem_cons.mpr ⟨nodup_of_eq rs202 (by decide),
  List.forall_mem_cons.mpr ⟨nodup_of_eq rs203 (by decide),
  List.forall_mem_cons.mpr ⟨nodup_of_eq rs204 (by decide),
  List.forall_mem_cons.mpr ⟨nodup_of_eq rs205 (by decide),
  List.forall_mem_cons.mpr ⟨nodup_of_eq rs206 (by decide),
  List.forall_mem_cons.mpr ⟨nodup_of_eq rs207 (by decide),
  List.forall_mem_cons.mpr ⟨nodup_of_eq rs208 (by decide),
  List.forall_mem_cons.mpr ⟨nodup_of_eq rs209 (by decide),
  ntl21⟩⟩⟩⟩⟩⟩⟩⟩⟩⟩


lemma ntl19 : ∀ s ∈ ([['R', 'B', 'P', 'O'],
      ['R', 'B', 'P', 'Y'],
      ['R', 'G', 'B', 'O'],
      ['R', 'G', 'B', 'Y'],
      ['R', 'G', 'B', 'P'],
      ['R', 'G', 'O', 'B'],
      ['R', 'G', 'O', 'Y'],
      ['R', 'G', 'O', 'P'],
      ['R', 'G', 'Y', 'B'],
      ['R', 'G', 'Y', 'O'],
      ['R', 'G', 'Y', 'P'],
      ['R', 'G', 'P', 'B'],
      ['R', 'G', 'P', 'O'],
      ['R', 'G', 'P', 'Y'],
      ['R', 'O', 'B', 'G'],
      ['R', 'O', 'B', 'Y'],
      ['R', 'O', 'B', 'P'],
      ['R', 'O', 'G', 'B'],
      ['R', 'O', 'G', 'Y'],
      ['R', 'O', 'G', 'P'],
      ['R', 'O', 'Y', 'B'],
      ['R', 'O', 'Y', 'G'],
      ['R', 'O', 'Y', 'P'],
      ['R', 'O', 'P', 'B'],
      ['R', 'O', 'P', 'G'],
      ['R', 'O', 'P', 'Y'],
      ['R', 'Y', 'B', 'G'],
      ['R', 'Y', 'B', 'O'],
      ['R', 'Y', 'B', 'P'],
      ['R', 'Y', 'G', 'B'],
      ['R', 'Y', 'G', 'O'],
      ['R', 'Y', 'G', 'P'],
      ['R', 'Y', 'O', 'B'],
      ['R', 'Y', 'O', 'G'],
      ['R', 'Y', 'O', 'P'],
      ['R', 'Y', 'P', 'B'],
      ['R', 'Y', 'P', 'G'],
      ['R', 'Y', 'P', 'O'],
      ['R', 'P', 'B', 'G'],
      ['R', 'P', 'B', 'O'],
      ['R', 'P', 'B', 'Y'],
      ['R', 'P', 'G', 'B'],
      ['R', 'P', 'G', 'O'],
      ['R', 'P', 'G', 'Y'],
      ['R', 'P', 'O', 'B'],
      ['R', 'P', 'O', 'G'],
      ['R', 'P', 'O', 'Y'],
      ['R', 'P', 'Y', 'B'],
      ['R', 'P', 'Y', 'G'],
      ['R', 'P', 'Y', 'O'],
      ['Y', 'B', 'G', 'O'],
      ['Y', 'B', 'G', 'R'],
      ['Y', 'B', 'G', 'P'],
      ['Y', 'B', 'O', 'G'],
      ['Y', 'B', 'O', 'R'],
      ['Y', 'B', 'O', 'P'],
      ['Y', 'B', 'R', 'G'],
      ['Y', 'B', 'R', 'O'],
      ['Y', 'B', 'R', 'P'],
      ['Y', 'B', 'P', 'G'],
      ['Y', 'B', 'P', 'O'],
      ['Y', 'B', 'P', 'R'],
      ['Y', 'G', 'B', 'O'],
      ['Y', 'G', 'B', 'R'],
      ['Y', 'G', 'B', 'P'],
      ['Y', 'G', 'O', 'B'],
      ['Y', 'G', 'O', 'R'],
      ['Y', 'G', 'O', 'P'],
      ['Y', 'G', 'R', 'B'],
      ['Y', 'G', 'R', 'O'],
      ['Y', 'G', 'R', 'P'],
      ['Y', 'G', 'P', 'B'],
      ['Y', 'G', 'P', 'O'],
      ['Y', 'G', 'P', 'R'],
      ['Y', 'O', 'B', 'G'],
      ['Y', 'O', 'B', 'R'],
      ['Y', 'O', 'B', 'P'],
      ['Y', 'O', 'G', 'B'],
      ['Y', 'O', 'G', 'R'],
      ['Y', 'O', 'G', 'P'],
      ['Y', 'O', 'R', 'B'],
      ['Y', 'O', 'R', 'G'],
      ['Y', 'O', 'R', 'P'],
      ['Y', 'O', 'P', 'B'],
      ['Y', 'O', 'P', 'G'],
      ['Y', 'O', 'P', 'R'],
      ['Y', 'R', 'B', 'G'],
      ['Y', 'R', 'B', 'O'],
      ['Y', 'R', 'B', 'P'],
      ['Y', 'R', 'G', 'B'],
      ['Y', 'R', 'G', 'O'],
      ['Y', 'R', 'G', 'P'],
      ['Y', 'R', 'O', 'B'],
      ['Y', 'R', 'O', 'G'],
      ['Y', 'R', 'O', 'P'],
      ['Y', 'R', 'P', 'B'],
      ['Y', 'R', 'P', 'G'],
      ['Y', 'R', 'P', 'O'],
      ['Y', 'P', 'B', 'G'],
      ['Y', 'P', 'B', 'O'],
      ['Y', 'P', 'B', 'R'],
      ['Y', 'P', 'G', 'B'],
      ['Y', 'P', 'G', 'O'],
      ['Y', 'P', 'G', 'R'],
      ['Y', 'P', 'O', 'B'],
      ['Y', 'P', 'O', 'G'],
      ['Y', 'P', 'O', 'R'],
      ['Y', 'P', 'R', 'B'],
      ['Y', 'P', 'R', 'G'],
      ['Y', 'P', 'R', 'O'],
      ['P', 'B', 'G', 'O'],
      ['P', 'B', 'G', 'R'],
      ['P', 'B', 'G', 'Y'],
      ['P', 'B', 'O', 'G'],
      ['P', 'B', 'O', 'R'],
      ['P', 'B', 'O', 'Y'],
      ['P', 'B', 'R', 'G'],
      ['P', 'B', 'R', 'O'],
      ['P', 'B', 'R', 'Y'],
      ['P', 'B', 'Y', 'G'],
      ['P', 'B', 'Y', 'O'],
      ['P', 'B', 'Y', 'R'],
      ['P', 'G', 'B', 'O'],
      ['P', 'G', 'B', 'R'],
      ['P', 'G', 'B', 'Y'],
      ['P', 'G', 'O', 'B'],
      ['P', 'G', 'O', 'R'],
      ['P', 'G', 'O', 'Y'],
      ['P', 'G', 'R', 'B'],
      ['P', 'G', 'R', 'O'],
      ['P', 'G', 'R', 'Y'],
      ['P', 'G', 'Y', 'B'],
      ['P', 'G', 'Y', 'O'],
      ['P', 'G', 'Y', 'R'],
      ['P', 'O', 'B', 'G'],
      ['P', 'O', 'B', 'R'],
      ['P', 'O', 'B', 'Y'],
      ['P', 'O', 'G', 'B'],
      ['P', 'O', 'G', 'R'],
      ['P', 'O', 'G', 'Y'],
      ['P', 'O', 'R', 'B'],
      ['P', 'O', 'R', 'G'],
      ['P', 'O', 'R', 'Y'],
      ['P', 'O', 'Y', 'B'],
      ['P', 'O', 'Y', 'G'],
      ['P', 'O', 'Y', 'R'],
      ['P', 'R', 'B', 'G'],
      ['P', 'R', 'B', 'O'],
      ['P', 'R', 'B', 'Y'],
      ['P', 'R', 'G', 'B'],
      ['P', 'R', 'G', 'O'],
      ['P', 'R', 'G', 'Y'],
      ['P', 'R', 'O', 'B'],
      ['P', 'R', 'O', 'G'],
      ['P', 'R', 'O', 'Y'],
      ['P', 'R', 'Y', 'B'],
      ['P', 'R', 'Y', 'G'],
      ['P', 'R', 'Y', 'O'],
      ['P', 'Y', 'B', 'G'],
      ['P', 'Y', 'B', 'O'],
      ['P', 'Y', 'B', 'R'],
      ['P', 'Y', 'G', 'B'],
      ['P', 'Y', 'G', 'O'],
      ['P', 'Y', 'G', 'R'],
      ['P', 'Y', 'O', 'B'],
      ['P', 'Y', 'O', 'G'],
      ['P', 'Y', 'O', 'R'],
      ['P', 'Y', 'R', 'B'],
      ['P', 'Y', 'R', 'G'],
      ['P', 'Y', 'R', 'O']] : List Code),
    (loopRun (honest s) 7 none S0 []).2.Nodup :=
  List.forall_mem_cons.mpr ⟨nodup_of_eq rs190 (by decide),
  List.forall_mem_cons.mpr ⟨nodup_of_eq rs191 (by decide),
  List.forall_mem_cons.mpr ⟨nodup_of_eq rs192 (by decide),
  List.forall_mem_cons.mpr ⟨nodup_of_eq rs193 (by decide),
  List.forall_mem_cons.mpr ⟨nodup_of_eq rs194 (by decide),
  List.forall_mem_cons.mpr ⟨nodup_of_eq rs195 (by decide),
  List.forall_mem_cons.mpr ⟨nodup_of_eq rs196 (by decide),
  List.forall_mem_cons.mpr ⟨nodup_of_eq rs197 (by decide),
  List.forall_mem_cons.mpr ⟨nodup_of_eq rs198 (by decide),
  List.forall_mem_cons.mpr ⟨nodup_of_eq rs199 (by decide),
  ntl20⟩⟩⟩⟩⟩⟩⟩⟩⟩⟩


lemma ntl18 : ∀ s ∈ ([['R', 'B', 'G', 'O'],
      ['R', 'B', 'G', 'Y'],
      ['R', 'B', 'G', 'P'],
      ['R', 'B', 'O', 'G'],
      ['R', 'B', 'O', 'Y'],
      ['R', 'B', 'O', 'P'],
      ['R', 'B', 'Y', 'G'],
      ['R', 'B', 'Y', 'O'],
      ['R', 'B', 'Y', 'P'],
      ['R', 'B', 'P', 'G'],
      ['R', 'B', 'P', 'O'],
      ['R', 'B', 'P', 'Y'],
      ['R', 'G', 'B', 'O'],
      ['R', 'G', 'B', 'Y'],
      ['R', 'G', 'B', 'P'],
      ['R', 'G', 'O', 'B'],
      ['R', 'G', 'O', 'Y'],
      ['R', 'G', 'O', 'P'],
      ['R', 'G', 'Y', 'B'],
      ['R', 'G', 'Y', 'O'],
      ['R', 'G', 'Y', 'P'],
      ['R', 'G', 'P', 'B'],
      ['R', 'G', 'P', 'O'],
      ['R', 'G', 'P', 'Y'],
      ['R', 'O', 'B', 'G'],
      ['R', 'O', 'B', 'Y'],
      ['R', 'O', 'B', 'P'],
      ['R', 'O', 'G', 'B'],
      ['R', 'O', 'G', 'Y'],
      ['R', 'O', 'G', 'P'],
      ['R', 'O', 'Y', 'B'],
      ['R', 'O', 'Y', 'G'],
      ['R', 'O', 'Y', 'P'],
      ['R', 'O', 'P', 'B'],
      ['R', 'O', 'P', 'G'],
      ['R', 'O', 'P', 'Y'],
      ['R', 'Y', 'B', 'G'],
      ['R', 'Y', 'B', 'O'],
      ['R', 'Y', 'B', 'P'],
      ['R', 'Y', 'G', 'B'],
      ['R', 'Y', 'G', 'O'],
      ['R', 'Y', 'G', 'P'],
      ['R', 'Y', 'O', 'B'],
      ['R', 'Y', 'O', 'G'],
      ['R', 'Y', 'O', 'P'],
      ['R', 'Y', 'P', 'B'],
      ['R', 'Y', 'P', 'G'],
      ['R', 'Y', 'P', 'O'],
      ['R', 'P', 'B', 'G'],
      ['R', 'P', 'B', 'O'],
      ['R', 'P', 'B', 'Y'],
      ['R', 'P', 'G', 'B'],
      ['R', 'P', 'G', 'O'],
      ['R', 'P', 'G', 'Y'],
      ['R', 'P', 'O', 'B'],
      ['R', 'P', 'O', 'G'],
      ['R', 'P', 'O', 'Y'],
      ['R', 'P', 'Y', 'B'],
      ['R', 'P', 'Y', 'G'],
      ['R', 'P', 'Y', 'O'],
      ['Y', 'B', 'G', 'O'],
      ['Y', 'B', 'G', 'R'],
      ['Y', 'B', 'G', 'P'],
      ['Y', 'B', 'O', 'G'],
      ['Y', 'B', 'O', 'R'],
      ['Y', 'B', 'O', 'P'],
      ['Y', 'B', 'R', 'G'],
      ['Y', 'B', 'R', 'O'],
      ['Y', 'B', 'R', 'P'],
      ['Y', 'B', 'P', 'G'],
      ['Y', 'B', 'P', 'O'],
      ['Y', 'B', 'P', 'R'],
      ['Y', 'G', 'B', 'O'],
      ['Y', 'G', 'B', 'R'],
      ['Y', 'G', 'B', 'P'],
      ['Y', 'G', 'O', 'B'],
      ['Y', 'G', 'O', 'R'],
      ['Y', 'G', 'O', 'P'],
      ['Y', 'G', 'R', 'B'],
      ['Y', 'G', 'R', 'O'],
      ['Y', 'G', 'R', 'P'],
      ['Y', 'G', 'P', 'B'],
      ['Y', 'G', 'P', 'O'],
      ['Y', 'G', 'P', 'R'],
      ['Y', 'O', 'B', 'G'],
      ['Y', 'O', 'B', 'R'],
      ['Y', 'O', 'B', 'P'],
      ['Y', 'O', 'G', 'B'],
      ['Y', 'O', 'G', 'R'],
      ['Y', 'O', 'G', 'P'],
      ['Y', 'O', 'R', 'B'],
      ['Y', 'O', 'R', 'G'],
      ['Y', 'O', 'R', 'P'],
      ['Y', 'O', 'P', 'B'],
      ['Y', 'O', 'P', 'G'],
      ['Y', 'O', 'P', 'R'],
      ['Y', 'R', 'B', 'G'],
      ['Y', 'R', 'B', 'O'],
      ['Y', 'R', 'B', 'P'],
      ['Y', 'R', 'G', 'B'],
      ['Y', 'R', 'G', 'O'],
      ['Y', 'R', 'G', 'P'],
      ['Y', 'R', 'O', 'B'],
      ['Y', 'R', 'O', 'G'],
      ['Y', 'R', 'O', 'P'],
      ['Y', 'R', 'P', 'B'],
      ['Y', 'R', 'P', 'G'],
      ['Y', 'R', 'P', 'O'],
      ['Y', 'P', 'B', 'G'],
      ['Y', 'P', 'B', 'O'],
      ['Y', 'P', 'B', 'R'],
      ['Y', 'P', 'G', 'B'],
      ['Y', 'P', 'G', 'O'],
      ['Y', 'P', 'G', 'R'],
      ['Y', 'P', 'O', 'B'],
      ['Y', 'P', 'O', 'G'],
      ['Y', 'P', 'O', 'R'],
      ['Y', 'P', 'R', 'B'],
      ['Y', 'P', 'R', 'G'],
      ['Y', 'P', 'R', 'O'],
      ['P', 'B', 'G', 'O'],
      ['P', 'B', 'G', 'R'],
      ['P', 'B', 'G', 'Y'],
      ['P', 'B', 'O', 'G'],
      ['P', 'B', 'O', 'R'],
      ['P', 'B', 'O', 'Y'],
      ['P', 'B', 'R', 'G'],
      ['P', 'B', 'R', 'O'],
      ['P', 'B', 'R', 'Y'],
      ['P', 'B', 'Y', 'G'],
      ['P', 'B', 'Y', 'O'],
      ['P', 'B', 'Y', 'R'],
      ['P', 'G', 'B', 'O'],
      ['P', 'G', 'B', 'R'],
      ['P', 'G', 'B', 'Y'],
      ['P', 'G', 'O', 'B'],
      ['P', 'G', 'O', 'R'],
      ['P', 'G', 'O', 'Y'],
      ['P', 'G', 'R', 'B'],
      ['P', 'G', 'R', 'O'],
      ['P', 'G', 'R', 'Y'],
      ['P', 'G', 'Y', 'B'],
      ['P', 'G', 'Y', 'O'],
      ['P', 'G', 'Y', 'R'],
      ['P', 'O', 'B', 'G'],
      ['P', 'O', 'B', 'R'],
      ['P', 'O', 'B', 'Y'],
      ['P', 'O', 'G', 'B'],
      ['P', 'O', 'G', 'R'],
      ['P', 'O', 'G', 'Y'],
      ['P', 'O', 'R', 'B'],
      ['P', 'O', 'R', 'G'],
      ['P', 'O', 'R', 'Y'],
      ['P', 'O', 'Y', 'B'],
      ['P', 'O', 'Y', 'G'],
      ['P', 'O', 'Y', 'R'],
      ['P', 'R', 'B', 'G'],
      ['P', 'R', 'B', 'O'],
      ['P', 'R', 'B', 'Y'],
      ['P', 'R', 'G', 'B'],
      ['P', 'R', 'G', 'O'],
      ['P', 'R', 'G', 'Y'],
      ['P', 'R', 'O', 'B'],
      ['P', 'R', 'O', 'G'],
      ['P', 'R', 'O', 'Y'],
      ['P', 'R', 'Y', 'B'],
      ['P', 'R', 'Y', 'G'],
      ['P', 'R', 'Y', 'O'],
      ['P', 'Y', 'B', 'G'],
      ['P', 'Y', 'B', 'O'],
      ['P', 'Y', 'B', 'R'],
      ['P', 'Y', 'G', 'B'],
      ['P', 'Y', 'G', 'O'],
      ['P', 'Y', 'G', 'R'],
      ['P', 'Y', 'O', 'B'],
      ['P', 'Y', 'O', 'G'],
      ['P', 'Y', 'O', 'R'],
      ['P', 'Y', 'R', 'B'],
      ['P', 'Y', 'R', 'G'],
      ['P', 'Y', 'R', 'O']] : List Code),
    (loopRun (honest s) 7 none S0 []).2.Nodup :=
  List.forall_mem_cons.mpr ⟨nodup_of_eq rs180 (by decide),
  List.forall_mem_cons.mpr ⟨nodup_of_eq rs181 (by decide),
  List.forall_mem_cons.mpr ⟨nodup_of_eq rs182 (by decide),
  List.forall_mem_cons.mpr ⟨nodup_of_eq rs183 (by decide),
  List.forall_mem_cons.mpr ⟨nodup_of_eq rs184 (by decide),
  List.forall_mem_cons.mpr ⟨nodup_of_eq rs185 (by decide),
  List.forall_mem_cons.mpr ⟨nodup_of_eq rs186 (by decide),
  List.forall_mem_cons.mpr ⟨nodup_of_eq rs187 (by decide),
  List.forall_mem_cons.mpr ⟨nodup_of_eq rs188 (by decide),
  List.forall_mem_cons.mpr ⟨nodup_of_eq rs189 (by decide),
  ntl19⟩⟩⟩⟩⟩⟩⟩⟩⟩⟩


lemma ntl17 : ∀ s ∈ ([['O', 'P', 'B', 'Y'],
      ['O', 'P', 'G', 'B'],
      ['O', 'P', 'G', 'R'],
      ['O', 'P', 'G', 'Y'],
      ['O', 'P', 'R', 'B'],
      ['O', 'P', 'R', 'G'],
      ['O', 'P', 'R', 'Y'],
      ['O', 'P', 'Y', 'B'],
      ['O', 'P', 'Y', 'G'],
      ['O', 'P', 'Y', 'R'],
      ['R', 'B', 'G', 'O'],
      ['R', 'B', 'G', 'Y'],
      ['R', 'B', 'G', 'P'],
      ['R', 'B', 'O', 'G'],
      ['R', 'B', 'O', 'Y'],
      ['R', 'B', 'O', 'P'],
      ['R', 'B', 'Y', 'G'],
      ['R', 'B', 'Y', 'O'],
      ['R', 'B', 'Y', 'P'],
      ['R', 'B', 'P', 'G'],
      ['R', 'B', 'P', 'O'],
      ['R', 'B', 'P', 'Y'],
      ['R', 'G', 'B', 'O'],
      ['R', 'G', 'B', 'Y'],
      ['R', 'G', 'B', 'P'],
      ['R', 'G', 'O', 'B'],
      ['R', 'G', 'O', 'Y'],
      ['R', 'G', 'O', 'P'],
      ['R', 'G', 'Y', 'B'],
      ['R', 'G', 'Y', 'O'],
      ['R', 'G', 'Y', 'P'],
      ['R', 'G', 'P', 'B'],
      ['R', 'G', 'P', 'O'],
      ['R', 'G', 'P', 'Y'],
      ['R', 'O', 'B', 'G'],
      ['R', 'O', 'B', 'Y'],
      ['R', 'O', 'B', 'P'],
      ['R', 'O', 'G', 'B'],
      ['R', 'O', 'G', 'Y'],
      ['R', 'O', 'G', 'P'],
      ['R', 'O', 'Y', 'B'],
      ['R', 'O', 'Y', 'G'],
      ['R', 'O', 'Y', 'P'],
      ['R', 'O', 'P', 'B'],
      ['R', 'O', 'P', 'G'],
      ['R', 'O', 'P', 'Y'],
      ['R', 'Y', 'B', 'G'],
      ['R', 'Y', 'B', 'O'],
      ['R', 'Y', 'B', 'P'],
      ['R', 'Y', 'G', 'B'],
      ['R', 'Y', 'G', 'O'],
      ['R', 'Y', 'G', 'P'],
      ['R', 'Y', 'O', 'B'],
      ['R', 'Y', 'O', 'G'],
      ['R', 'Y', 'O', 'P'],
      ['R', 'Y', 'P', 'B'],
      ['R', 'Y', 'P', 'G'],
      ['R', 'Y', 'P', 'O'],
      ['R', 'P', 'B', 'G'],
      ['R', 'P', 'B', 'O'],
      ['R', 'P', 'B', 'Y'],
      ['R', 'P', 'G', 'B'],
      ['R', 'P', 'G', 'O'],
      ['R', 'P', 'G', 'Y'],
      ['R', 'P', 'O', 'B'],
      ['R', 'P', 'O', 'G'],
      ['R', 'P', 'O', 'Y'],
      ['R', 'P', 'Y', 'B'],
      ['R', 'P', 'Y', 'G'],
      ['R', 'P', 'Y', 'O'],
      ['Y', 'B', 'G', 'O'],
      ['Y', 'B', 'G', 'R'],
      ['Y', 'B', 'G', 'P'],
      ['Y', 'B', 'O', 'G'],
      ['Y', 'B', 'O', 'R'],
      ['Y', 'B', 'O', 'P'],
      ['Y', 'B', 'R', 'G'],
      ['Y', 'B', 'R', 'O'],
      ['Y', 'B', 'R', 'P'],
      ['Y', 'B', 'P', 'G'],
      ['Y', 'B', 'P', 'O'],
      ['Y', 'B', 'P', 'R'],
      ['Y', 'G', 'B', 'O'],
      ['Y', 'G', 'B', 'R'],
      ['Y', 'G', 'B', 'P'],
      ['Y', 'G', 'O', 'B'],
      ['Y', 'G', 'O', 'R'],
      ['Y', 'G', 'O', 'P'],
      ['Y', 'G', 'R', 'B'],
      ['Y', 'G', 'R', 'O'],
      ['Y', 'G', 'R', 'P'],
      ['Y', 'G', 'P', 'B'],
      ['Y', 'G', 'P', 'O'],
      ['Y', 'G', 'P', 'R'],
      ['Y', 'O', 'B', 'G'],
      ['Y', 'O', 'B', 'R'],
      ['Y', 'O', 'B', 'P'],
      ['Y', 'O', 'G', 'B'],
      ['Y', 'O', 'G', 'R'],
      ['Y', 'O', 'G', 'P'],
      ['Y', 'O', 'R', 'B'],
      ['Y', 'O', 'R', 'G'],
      ['Y', 'O', 'R', 'P'],
      ['Y', 'O', 'P', 'B'],
      ['Y', 'O', 'P', 'G'],
      ['Y', 'O', 'P', 'R'],
      ['Y', 'R', 'B', 'G'],
      ['Y', 'R', 'B', 'O'],
      ['Y', 'R', 'B', 'P'],
      ['Y', 'R', 'G', 'B'],
      ['Y', 'R', 'G', 'O'],
      ['Y', 'R', 'G', 'P'],
      ['Y', 'R', 'O', 'B'],
      ['Y', 'R', 'O', 'G'],
      ['Y', 'R', 'O', 'P'],
      ['Y', 'R', 'P', 'B'],
      ['Y', 'R', 'P', 'G'],
      ['Y', 'R', 'P', 'O'],
      ['Y', 'P', 'B', 'G'],
      ['Y', 'P', 'B', 'O'],
      ['Y', 'P', 'B', 'R'],
      ['Y', 'P', 'G', 'B'],
      ['Y', 'P', 'G', 'O'],
      ['Y', 'P', 'G', 'R'],
      ['Y', 'P', 'O', 'B'],
      ['Y', 'P', 'O', 'G'],
      ['Y', 'P', 'O', 'R'],
      ['Y', 'P', 'R', 'B'],
      ['Y', 'P', 'R', 'G'],
      ['Y', 'P', 'R', 'O'],
      ['P', 'B', 'G', 'O'],
      ['P', 'B', 'G', 'R'],
      ['P', 'B', 'G', 'Y'],
      ['P', 'B', 'O', 'G'],
      ['P', 'B', 'O', 'R'],
      ['P', 'B', 'O', 'Y'],
      ['P', 'B', 'R', 'G'],
      ['P', 'B', 'R', 'O'],
      ['P', 'B', 'R', 'Y'],
      ['P', 'B', 'Y', 'G'],
      ['P', 'B', 'Y', 'O'],
      ['P', 'B', 'Y', 'R'],
      ['P', 'G', 'B', 'O'],
      ['P', 'G', 'B', 'R'],
      ['P', 'G', 'B', 'Y'],
      ['P', 'G', 'O', 'B'],
      ['P', 'G', 'O', 'R'],
      ['P', 'G', 'O', 'Y'],
      ['P', 'G', 'R', 'B'],
      ['P', 'G', 'R', 'O'],
      ['P', 'G', 'R', 'Y'],
      ['P', 'G', 'Y', 'B'],
      ['P', 'G', 'Y', 'O'],
      ['P', 'G', 'Y', 'R'],
      ['P', 'O', 'B', 'G'],
      ['P', 'O', 'B', 'R'],
      ['P', 'O', 'B', 'Y'],
      ['P', 'O', 'G', 'B'],
      ['P', 'O', 'G', 'R'],
      ['P', 'O', 'G', 'Y'],
      ['P', 'O', 'R', 'B'],
      ['P', 'O', 'R', 'G'],
      ['P', 'O', 'R', 'Y'],
      ['P', 'O', 'Y', 'B'],
      ['P', 'O', 'Y', 'G'],
      ['P', 'O', 'Y', 'R'],
      ['P', 'R', 'B', 'G'],
      ['P', 'R', 'B', 'O'],
      ['P', 'R', 'B', 'Y'],
      ['P', 'R', 'G', 'B'],
      ['P', 'R', 'G', 'O'],
      ['P', 'R', 'G', 'Y'],
      ['P', 'R', 'O', 'B'],
      ['P', 'R', 'O', 'G'],
      ['P', 'R', 'O', 'Y'],
      ['P', 'R', 'Y', 'B'],
      ['P', 'R', 'Y', 'G'],
      ['P', 'R', 'Y', 'O'],
      ['P', 'Y', 'B', 'G'],
      ['P', 'Y', 'B', 'O'],
      ['P', 'Y', 'B', 'R'],
      ['P', 'Y', 'G', 'B'],
      ['P', 'Y', 'G', 'O'],
      ['P', 'Y', 'G', 'R'],
      ['P', 'Y', 'O', 'B'],
      ['P', 'Y', 'O', 'G'],
      ['P', 'Y', 'O', 'R'],
      ['P', 'Y', 'R', 'B'],
      ['P', 'Y', 'R', 'G'],
      ['P', 'Y', 'R', 'O']] : List Code),
    (loopRun (honest s) 7 none S0 []).2.Nodup :=
  List.forall_mem_cons.mpr ⟨nodup_of_eq rs170 (by decide),
  List.forall_mem_cons.mpr ⟨nodup_of_eq rs171 (by decide),
  List.forall_mem_cons.mpr ⟨nodup_of_eq rs172 (by decide),
  List.forall_mem_cons.mpr ⟨nodup_of_eq rs173 (by decide),
  List.forall_mem_cons.mpr ⟨nodup_of_eq rs174 (by decide),
  List.forall_mem_cons.mpr ⟨nodup_of_eq rs175 (by decide),
  List.forall_mem_cons.mpr ⟨nodup_of_eq rs176 (by decide),
  List.forall_mem_cons.mpr ⟨nodup_of_eq rs177 (by decide),
  List.forall_mem_cons.mpr ⟨nodup_of_eq rs178 (by decide),
  List.forall_mem_cons.mpr ⟨nodup_of_eq rs179 (by decide),
  ntl18⟩⟩⟩⟩⟩⟩⟩⟩⟩⟩


lemma ntl16 : ∀ s ∈ ([['O', 'Y', 'G', 'R'],
      ['O', 'Y', 'G', 'P'],
      ['O', 'Y', 'R', 'B'],
      ['O', 'Y', 'R', 'G'],
      ['O', 'Y', 'R', 'P'],
      ['O', 'Y', 'P', 'B'],
      ['O', 'Y', 'P', 'G'],
      ['O', 'Y', 'P', 'R'],
      ['O', 'P', 'B', 'G'],
      ['O', 'P', 'B', 'R'],
      ['O', 'P', 'B', 'Y'],
      ['O', 'P', 'G', 'B'],
      ['O', 'P', 'G', 'R'],
      ['O', 'P', 'G', 'Y'],
      ['O', 'P', 'R', 'B'],
      ['O', 'P', 'R', 'G'],
      ['O', 'P', 'R', 'Y'],
      ['O', 'P', 'Y', 'B'],
      ['O', 'P', 'Y', 'G'],
      ['O', 'P', 'Y', 'R'],
      ['R', 'B', 'G', 'O'],
      ['R', 'B', 'G', 'Y'],
      ['R', 'B', 'G', 'P'],
      ['R', 'B', 'O', 'G'],
      ['R', 'B', 'O', 'Y'],
      ['R', 'B', 'O', 'P'],
      ['R', 'B', 'Y', 'G'],
      ['R', 'B', 'Y', 'O'],
      ['R', 'B', 'Y', 'P'],
      ['R', 'B', 'P', 'G'],
      ['R', 'B', 'P', 'O'],
      ['R', 'B', 'P', 'Y'],
      ['R', 'G', 'B', 'O'],
      ['R', 'G', 'B', 'Y'],
      ['R', 'G', 'B', 'P'],
      ['R', 'G', 'O', 'B'],
      ['R', 'G', 'O', 'Y'],
      ['R', 'G', 'O', 'P'],
      ['R', 'G', 'Y', 'B'],
      ['R', 'G', 'Y', 'O'],
      ['R', 'G', 'Y', 'P'],
      ['R', 'G', 'P', 'B'],
      ['R', 'G', 'P', 'O'],
      ['R', 'G', 'P', 'Y'],
      ['R', 'O', 'B', 'G'],
      ['R', 'O', 'B', 'Y'],
      ['R', 'O', 'B', 'P'],
      ['R', 'O', 'G', 'B'],
      ['R', 'O', 'G', 'Y'],
      ['R', 'O', 'G', 'P'],
      ['R', 'O', 'Y', 'B'],
      ['R', 'O', 'Y', 'G'],
      ['R', 'O', 'Y', 'P'],
      ['R', 'O', 'P', 'B'],
      ['R', 'O', 'P', 'G'],
      ['R', 'O', 'P', 'Y'],
      ['R', 'Y', 'B', 'G'],
      ['R', 'Y', 'B', 'O'],
      ['R', 'Y', 'B', 'P'],
      ['R', 'Y', 'G', 'B'],
      ['R', 'Y', 'G', 'O'],
      ['R', 'Y', 'G', 'P'],
      ['R', 'Y', 'O', 'B'],
      ['R', 'Y', 'O', 'G'],
      ['R', 'Y', 'O', 'P'],
      ['R', 'Y', 'P', 'B'],
      ['R', 'Y', 'P', 'G'],
      ['R', 'Y', 'P', 'O'],
      ['R', 'P', 'B', 'G'],
      ['R', 'P', 'B', 'O'],
      ['R', 'P', 'B', 'Y'],
      ['R', 'P', 'G', 'B'],
      ['R', 'P', 'G', 'O'],
      ['R', 'P', 'G', 'Y'],
      ['R', 'P', 'O', 'B'],
      ['R', 'P', 'O', 'G'],
      ['R', 'P', 'O', 'Y'],
      ['R', 'P', 'Y', 'B'],
      ['R', 'P', 'Y', 'G'],
      ['R', 'P', 'Y', 'O'],
      ['Y', 'B', 'G', 'O'],
      ['Y', 'B', 'G', 'R'],
      ['Y', 'B', 'G', 'P'],
      ['Y', 'B', 'O', 'G'],
      ['Y', 'B', 'O', 'R'],
      ['Y', 'B', 'O', 'P'],
      ['Y', 'B', 'R', 'G'],
      ['Y', 'B', 'R', 'O'],
      ['Y', 'B', 'R', 'P'],
      ['Y', 'B', 'P', 'G'],
      ['Y', 'B', 'P', 'O'],
      ['Y', 'B', 'P', 'R'],
      ['Y', 'G', 'B', 'O'],
      ['Y', 'G', 'B', 'R'],
      ['Y', 'G', 'B', 'P'],
      ['Y', 'G', 'O', 'B'],
      ['Y', 'G', 'O', 'R'],
      ['Y', 'G', 'O', 'P'],
      ['Y', 'G', 'R', 'B'],
      ['Y', 'G', 'R', 'O'],
      ['Y', 'G', 'R', 'P'],
      ['Y', 'G', 'P', 'B'],
      ['Y', 'G', 'P', 'O'],
      ['Y', 'G', 'P', 'R'],
      ['Y', 'O', 'B', 'G'],
      ['Y', 'O', 'B', 'R'],
      ['Y', 'O', 'B', 'P'],
      ['Y', 'O', 'G', 'B'],
      ['Y', 'O', 'G', 'R'],
      ['Y', 'O', 'G', 'P'],
      ['Y', 'O', 'R', 'B'],
      ['Y', 'O', 'R', 'G'],
      ['Y', 'O', 'R', 'P'],
      ['Y', 'O', 'P', 'B'],
      ['Y', 'O', 'P', 'G'],
      ['Y', 'O', 'P', 'R'],
      ['Y', 'R', 'B', 'G'],
      ['Y', 'R', 'B', 'O'],
      ['Y', 'R', 'B', 'P'],
      ['Y', 'R', 'G', 'B'],
      ['Y', 'R', 'G', 'O'],
      ['Y', 'R', 'G', 'P'],
      ['Y', 'R', 'O', 'B'],
      ['Y', 'R', 'O', 'G'],
      ['Y', 'R', 'O', 'P'],
      ['Y', 'R', 'P', 'B'],
      ['Y', 'R', 'P', 'G'],
      ['Y', 'R', 'P', 'O'],
      ['Y', 'P', 'B', 'G'],
      ['Y', 'P', 'B', 'O'],
      ['Y', 'P', 'B', 'R'],
      ['Y', 'P', 'G', 'B'],
      ['Y', 'P', 'G', 'O'],
      ['Y', 'P', 'G', 'R'],
      ['Y', 'P', 'O', 'B'],
      ['Y', 'P', 'O', 'G'],
      ['Y', 'P', 'O', 'R'],
      ['Y', 'P', 'R', 'B'],
      ['Y', 'P', 'R', 'G'],
      ['Y', 'P', 'R', 'O'],
      ['P', 'B', 'G', 'O'],
      ['P', 'B', 'G', 'R'],
      ['P', 'B', 'G', 'Y'],
      ['P', 'B', 'O', 'G'],
      ['P', 'B', 'O', 'R'],
      ['P', 'B', 'O', 'Y'],
      ['P', 'B', 'R', 'G'],
      ['P', 'B', 'R', 'O'],
      ['P', 'B', 'R', 'Y'],
      ['P', 'B', 'Y', 'G'],
      ['P', 'B', 'Y', 'O'],
      ['P', 'B', 'Y', 'R'],
      ['P', 'G', 'B', 'O'],
      ['P', 'G', 'B', 'R'],
      ['P', 'G', 'B', 'Y'],
      ['P', 'G', 'O', 'B'],
      ['P', 'G', 'O', 'R'],
      ['P', 'G', 'O', 'Y'],
      ['P', 'G', 'R', 'B'],
      ['P', 'G', 'R', 'O'],
      ['P', 'G', 'R', 'Y'],
      ['P', 'G', 'Y', 'B'],
      ['P', 'G', 'Y', 'O'],
      ['P', 'G', 'Y', 'R'],
      ['P', 'O', 'B', 'G'],
      ['P', 'O', 'B', 'R'],
      ['P', 'O', 'B', 'Y'],
      ['P', 'O', 'G', 'B'],
      ['P', 'O', 'G', 'R'],
      ['P', 'O', 'G', 'Y'],
      ['P', 'O', 'R', 'B'],
      ['P', 'O', 'R', 'G'],
      ['P', 'O', 'R', 'Y'],
      ['P', 'O', 'Y', 'B'],
      ['P', 'O', 'Y', 'G'],
      ['P', 'O', 'Y', 'R'],
      ['P', 'R', 'B', 'G'],
      ['P', 'R', 'B', 'O'],
      ['P', 'R', 'B', 'Y'],
      ['P', 'R', 'G', 'B'],
      ['P', 'R', 'G', 'O'],
      ['P', 'R', 'G', 'Y'],
      ['P', 'R', 'O', 'B'],
      ['P', 'R', 'O', 'G'],
      ['P', 'R', 'O', 'Y'],
      ['P', 'R', 'Y', 'B'],
      ['P', 'R', 'Y', 'G'],
      ['P', 'R', 'Y', 'O'],
      ['P', 'Y', 'B', 'G'],
      ['P', 'Y', 'B', 'O'],
      ['P', 'Y', 'B', 'R'],
      ['P', 'Y', 'G', 'B'],
      ['P', 'Y', 'G', 'O'],
      ['P', 'Y', 'G', 'R'],
      ['P', 'Y', 'O', 'B'],
      ['P', 'Y', 'O', 'G'],
      ['P', 'Y', 'O', 'R'],
      ['P', 'Y', 'R', 'B'],
      ['P', 'Y', 'R', 'G'],
      ['P', 'Y', 'R', 'O']] : List Code),
    (loopRun (honest s) 7 none S0 []).2.Nodup :=
  List.forall_mem_cons.mpr ⟨nodup_of_eq rs160 (by decide),
  List.forall_mem_cons.mpr ⟨nodup_of_eq rs161 (by decide),
  List.forall_mem_cons.mpr ⟨nodup_of_eq rs162 (by decide),
  List.forall_mem_cons.mpr ⟨nodup_of_eq rs163 (by decide),
  List.forall_mem_cons.mpr ⟨nodup_of_eq rs164 (by decide),
  List.forall_mem_cons.mpr ⟨nodup_of_eq rs165 (by decide),
  List.forall_mem_cons.mpr ⟨nodup_of_eq rs166 (by decide),
  List.forall_mem_cons.mpr ⟨nodup_of_eq rs167 (by decide),
  List.forall_mem_cons.mpr ⟨nodup_of_eq rs168 (by decide),
  List.forall_mem_cons.mpr ⟨nodup_of_eq rs169 (by decide),
  ntl17⟩⟩⟩⟩⟩⟩⟩⟩⟩⟩


lemma ntl15 : ∀ s ∈ ([['O', 'R', 'Y', 'B'],
      ['O', 'R', 'Y', 'G'],
      ['O', 'R', 'Y', 'P'],
      ['O', 'R', 'P', 'B'],
      ['O', 'R', 'P', 'G'],
      ['O', 'R', 'P', 'Y'],
      ['O', 'Y', 'B', 'G'],
      ['O', 'Y', 'B', 'R'],
      ['O', 'Y', 'B', 'P'],
      ['O', 'Y', 'G', 'B'],
      ['O', 'Y', 'G', 'R'],
      ['O', 'Y', 'G', 'P'],
      ['O', 'Y', 'R', 'B'],
      ['O', 'Y', 'R', 'G'],
      ['O', 'Y', 'R', 'P'],
      ['O', 'Y', 'P', 'B'],
      ['O', 'Y', 'P', 'G'],
      ['O', 'Y', 'P', 'R'],
      ['O', 'P', 'B', 'G'],
      ['O', 'P', 'B', 'R'],
      ['O', 'P', 'B', 'Y'],
      ['O', 'P', 'G', 'B'],
      ['O', 'P', 'G', 'R'],
      ['O', 'P', 'G', 'Y'],
      ['O', 'P', 'R', 'B'],
      ['O', 'P', 'R', 'G'],
      ['O', 'P', 'R', 'Y'],
      ['O', 'P', 'Y', 'B'],
      ['O', 'P', 'Y', 'G'],
      ['O', 'P', 'Y', 'R'],
      ['R', 'B', 'G', 'O'],
      ['R', 'B', 'G', 'Y'],
      ['R', 'B', 'G', 'P'],
      ['R', 'B', 'O', 'G'],
      ['R', 'B', 'O', 'Y'],
      ['R', 'B', 'O', 'P'],
      ['R', 'B', 'Y', 'G'],
      ['R', 'B', 'Y', 'O'],
      ['R', 'B', 'Y', 'P'],
      ['R', 'B', 'P', 'G'],
      ['R', 'B', 'P', 'O'],
      ['R', 'B', 'P', 'Y'],
      ['R', 'G', 'B', 'O'],
      ['R', 'G', 'B', 'Y'],
      ['R', 'G', 'B', 'P'],
      ['R', 'G', 'O', 'B'],
      ['R', 'G', 'O', 'Y'],
      ['R', 'G', 'O', 'P'],
      ['R', 'G', 'Y', 'B'],
      ['R', 'G', 'Y', 'O'],
      ['R', 'G', 'Y', 'P'],
      ['R', 'G', 'P', 'B'],
      ['R', 'G', 'P', 'O'],
      ['R', 'G', 'P', 'Y'],
      ['R', 'O', 'B', 'G'],
      ['R', 'O', 'B', 'Y'],
      ['R', 'O', 'B', 'P'],
      ['R', 'O', 'G', 'B'],
      ['R', 'O', 'G', 'Y'],
      ['R', 'O', 'G', 'P'],
      ['R', 'O', 'Y', 'B'],
      ['R', 'O', 'Y', 'G'],
      ['R', 'O', 'Y', 'P'],
      ['R', 'O', 'P', 'B'],
      ['R', 'O', 'P', 'G'],
      ['R', 'O', 'P', 'Y'],
      ['R', 'Y', 'B', 'G'],
      ['R', 'Y', 'B', 'O'],
      ['R', 'Y', 'B', 'P'],
      ['R', 'Y', 'G', 'B'],
      ['R', 'Y', 'G', 'O'],
      ['R', 'Y', 'G', 'P'],
      ['R', 'Y', 'O', 'B'],
      ['R', 'Y', 'O', 'G'],
      ['R', 'Y', 'O', 'P'],
      ['R', 'Y', 'P', 'B'],
      ['R', 'Y', 'P', 'G'],
      ['R', 'Y', 'P', 'O'],
      ['R', 'P', 'B', 'G'],
      ['R', 'P', 'B', 'O'],
      ['R', 'P', 'B', 'Y'],
      ['R', 'P', 'G', 'B'],
      ['R', 'P', 'G', 'O'],
      ['R', 'P', 'G', 'Y'],
      ['R', 'P', 'O', 'B'],
      ['R', 'P', 'O', 'G'],
      ['R', 'P', 'O', 'Y'],
      ['R', 'P', 'Y', 'B'],
      ['R', 'P', 'Y', 'G'],
      ['R', 'P', 'Y', 'O'],
      ['Y', 'B', 'G', 'O'],
      ['Y', 'B', 'G', 'R'],
      ['Y', 'B', 'G', 'P'],
      ['Y', 'B', 'O', 'G'],
      ['Y', 'B', 'O', 'R'],
      ['Y', 'B', 'O', 'P'],
      ['Y', 'B', 'R', 'G'],
      ['Y', 'B', 'R', 'O'],
      ['Y', 'B', 'R', 'P'],
      ['Y', 'B', 'P', 'G'],
      ['Y', 'B', 'P', 'O'],
      ['Y', 'B', 'P', 'R'],
      ['Y', 'G', 'B', 'O'],
      ['Y', 'G', 'B', 'R'],
      ['Y', 'G', 'B', 'P'],
      ['Y', 'G', 'O', 'B'],
      ['Y', 'G', 'O', 'R'],
      ['Y', 'G', 'O', 'P'],
      ['Y', 'G', 'R', 'B'],
      ['Y', 'G', 'R', 'O'],
      ['Y', 'G', 'R', 'P'],
      ['Y', 'G', 'P', 'B'],
      ['Y', 'G', 'P', 'O'],
      ['Y', 'G', 'P', 'R'],
      ['Y', 'O', 'B', 'G'],
      ['Y', 'O', 'B', 'R'],
      ['Y', 'O', 'B', 'P'],
      ['Y', 'O', 'G', 'B'],
      ['Y', 'O', 'G', 'R'],
      ['Y', 'O', 'G', 'P'],
      ['Y', 'O', 'R', 'B'],
      ['Y', 'O', 'R', 'G'],
      ['Y', 'O', 'R', 'P'],
      ['Y', 'O', 'P', 'B'],
      ['Y', 'O', 'P', 'G'],
      ['Y', 'O', 'P', 'R'],
      ['Y', 'R', 'B', 'G'],
      ['Y', 'R', 'B', 'O'],
      ['Y', 'R', 'B', 'P'],
      ['Y', 'R', 'G', 'B'],
      ['Y', 'R', 'G', 'O'],
      ['Y', 'R', 'G', 'P'],
      ['Y', 'R', 'O', 'B'],
      ['Y', 'R', 'O', 'G'],
      ['Y', 'R', 'O', 'P'],
      ['Y', 'R', 'P', 'B'],
      ['Y', 'R', 'P', 'G'],
      ['Y', 'R', 'P', 'O'],
      ['Y', 'P', 'B', 'G'],
      ['Y', 'P', 'B', 'O'],
      ['Y', 'P', 'B', 'R'],
      ['Y', 'P', 'G', 'B'],
      ['Y', 'P', 'G', 'O'],
      ['Y', 'P', 'G', 'R'],
      ['Y', 'P', 'O', 'B'],
      ['Y', 'P', 'O', 'G'],
      ['Y', 'P', 'O', 'R'],
      ['Y', 'P', 'R', 'B'],
      ['Y', 'P', 'R', 'G'],
      ['Y', 'P', 'R', 'O'],
      ['P', 'B', 'G', 'O'],
      ['P', 'B', 'G', 'R'],
      ['P', 'B', 'G', 'Y'],
      ['P', 'B', 'O', 'G'],
      ['P', 'B', 'O', 'R'],
      ['P', 'B', 'O', 'Y'],
      ['P', 'B', 'R', 'G'],
      ['P', 'B', 'R', 'O'],
      ['P', 'B', 'R', 'Y'],
      ['P', 'B', 'Y', 'G'],
      ['P', 'B', 'Y', 'O'],
      ['P', 'B', 'Y', 'R'],
      ['P', 'G', 'B', 'O'],
      ['P', 'G', 'B', 'R'],
      ['P', 'G', 'B', 'Y'],
      ['P', 'G', 'O', 'B'],
      ['P', 'G', 'O', 'R'],
      ['P', 'G', 'O', 'Y'],
      ['P', 'G', 'R', 'B'],
      ['P', 'G', 'R', 'O'],
      ['P', 'G', 'R', 'Y'],
      ['P', 'G', 'Y', 'B'],
      ['P', 'G', 'Y', 'O'],
      ['P', 'G', 'Y', 'R'],
      ['P', 'O', 'B', 'G'],
      ['P', 'O', 'B', 'R'],
      ['P', 'O', 'B', 'Y'],
      ['P', 'O', 'G', 'B'],
      ['P', 'O', 'G', 'R'],
      ['P', 'O', 'G', 'Y'],
      ['P', 'O', 'R', 'B'],
      ['P', 'O', 'R', 'G'],
      ['P', 'O', 'R', 'Y'],
      ['P', 'O', 'Y', 'B'],
      ['P', 'O', 'Y', 'G'],
      ['P', 'O', 'Y', 'R'],
      ['P', 'R', 'B', 'G'],
      ['P', 'R', 'B', 'O'],
      ['P', 'R', 'B', 'Y'],
      ['P', 'R', 'G', 'B'],
      ['P', 'R', 'G', 'O'],
      ['P', 'R', 'G', 'Y'],
      ['P', 'R', 'O', 'B'],
      ['P', 'R', 'O', 'G'],
      ['P', 'R', 'O', 'Y'],
      ['P', 'R', 'Y', 'B'],
      ['P', 'R', 'Y', 'G'],
      ['P', 'R', 'Y', 'O'],
      ['P', 'Y', 'B', 'G'],
      ['P', 'Y', 'B', 'O'],
      ['P', 'Y', 'B', 'R'],
      ['P', 'Y', 'G', 'B'],
      ['P', 'Y', 'G', 'O'],
      ['P', 'Y', 'G', 'R'],
      ['P', 'Y', 'O', 'B'],
      ['P', 'Y', 'O', 'G'],
      ['P', 'Y', 'O', 'R'],
      ['P', 'Y', 'R', 'B'],
      ['P', 'Y', 'R', 'G'],
      ['P', 'Y', 'R', 'O']] : List Code),
    (loopRun (honest s) 7 none S0 []).2.Nodup :=
  List.forall_mem_cons.mpr ⟨nodup_of_eq rs150 (by decide),
  List.forall_mem_cons.mpr ⟨nodup_of_eq rs151 (by decide),
  List.forall_mem_cons.mpr ⟨nodup_of_eq rs152 (by decide),
  List.forall_mem_cons.mpr ⟨nodup_of_eq rs153 (by decide),
  List.forall_mem_cons.mpr ⟨nodup_of_eq rs154 (by decide),
  List.forall_mem_cons.mpr ⟨nodup_of_eq rs155 (by decide),
  List.forall_mem_cons.mpr ⟨nodup_of_eq rs156 (by decide),
  List.forall_mem_cons.mpr ⟨nodup_of_eq rs157 (by decide),
  List.forall_mem_cons.mpr ⟨nodup_of_eq rs158 (by decide),
  List.forall_mem_cons.mpr ⟨nodup_of_eq rs159 (by decide),
  ntl16⟩⟩⟩⟩⟩⟩⟩⟩⟩⟩


lemma ntl14 : ∀ s ∈ ([['O', 'G', 'Y', 'P'],
      ['O', 'G', 'P', 'B'],
      ['O', 'G', 'P', 'R'],
      ['O', 'G', 'P', 'Y'],
      ['O', 'R', 'B', 'G'],
      ['O', 'R', 'B', 'Y'],
      ['O', 'R', 'B', 'P'],
      ['O', 'R', 'G', 'B'],
      ['O', 'R', 'G', 'Y'],
      ['O', 'R', 'G', 'P'],
      ['O', 'R', 'Y', 'B'],
      ['O', 'R', 'Y', 'G'],
      ['O', 'R', 'Y', 'P'],
      ['O', 'R', 'P', 'B'],
      ['O', 'R', 'P', 'G'],
      ['O', 'R', 'P', 'Y'],
      ['O', 'Y', 'B', 'G'],
      ['O', 'Y', 'B', 'R'],
      ['O', 'Y', 'B', 'P'],
      ['O', 'Y', 'G', 'B'],
      ['O', 'Y', 'G', 'R'],
      ['O', 'Y', 'G', 'P'],
      ['O', 'Y', 'R', 'B'],
      ['O', 'Y', 'R', 'G'],
      ['O', 'Y', 'R', 'P'],
      ['O', 'Y', 'P', 'B'],
      ['O', 'Y', 'P', 'G'],
      ['O', 'Y', 'P', 'R'],
      ['O', 'P', 'B', 'G'],
      ['O', 'P', 'B', 'R'],
      ['O', 'P', 'B', 'Y'],
      ['O', 'P', 'G', 'B'],
      ['O', 'P', 'G', 'R'],
      ['O', 'P', 'G', 'Y'],
      ['O', 'P', 'R', 'B'],
      ['O', 'P', 'R', 'G'],
      ['O', 'P', 'R', 'Y'],
      ['O', 'P', 'Y', 'B'],
      ['O', 'P', 'Y', 'G'],
      ['O', 'P', 'Y', 'R'],
      ['R', 'B', 'G', 'O'],
      ['R', 'B', 'G', 'Y'],
      ['R', 'B', 'G', 'P'],
      ['R', 'B', 'O', 'G'],
      ['R', 'B', 'O', 'Y'],
      ['R', 'B', 'O', 'P'],
      ['R', 'B', 'Y', 'G'],
      ['R', 'B', 'Y', 'O'],
      ['R', 'B', 'Y', 'P'],
      ['R', 'B', 'P', 'G'],
      ['R', 'B', 'P', 'O'],
      ['R', 'B', 'P', 'Y'],
      ['R', 'G', 'B', 'O'],
      ['R', 'G', 'B', 'Y'],
      ['R', 'G', 'B', 'P'],
      ['R', 'G', 'O', 'B'],
      ['R', 'G', 'O', 'Y'],
      ['R', 'G', 'O', 'P'],
      ['R', 'G', 'Y', 'B'],
      ['R', 'G', 'Y', 'O'],
      ['R', 'G', 'Y', 'P'],
      ['R', 'G', 'P', 'B'],
      ['R', 'G', 'P', 'O'],
      ['R', 'G', 'P', 'Y'],
      ['R', 'O', 'B', 'G'],
      ['R', 'O', 'B', 'Y'],
      ['R', 'O', 'B', 'P'],
      ['R', 'O', 'G', 'B'],
      ['R', 'O', 'G', 'Y'],
      ['R', 'O', 'G', 'P'],
      ['R', 'O', 'Y', 'B'],
      ['R', 'O', 'Y', 'G'],
      ['R', 'O', 'Y', 'P'],
      ['R', 'O', 'P', 'B'],
      ['R', 'O', 'P', 'G'],
      ['R', 'O', 'P', 'Y'],
      ['R', 'Y', 'B', 'G'],
      ['R', 'Y', 'B', 'O'],
      ['R', 'Y', 'B', 'P'],
      ['R', 'Y', 'G', 'B'],
      ['R', 'Y', 'G', 'O'],
      ['R', 'Y', 'G', 'P'],
      ['R', 'Y', 'O', 'B'],
      ['R', 'Y', 'O', 'G'],
      ['R', 'Y', 'O', 'P'],
      ['R', 'Y', 'P', 'B'],
      ['R', 'Y', 'P', 'G'],
      ['R', 'Y', 'P', 'O'],
      ['R', 'P', 'B', 'G'],
      ['R', 'P', 'B', 'O'],
      ['R', 'P', 'B', 'Y'],
      ['R', 'P', 'G', 'B'],
      ['R', 'P', 'G', 'O'],
      ['R', 'P', 'G', 'Y'],
      ['R', 'P', 'O', 'B'],
      ['R', 'P', 'O', 'G'],
      ['R', 'P', 'O', 'Y'],
      ['R', 'P', 'Y', 'B'],
      ['R', 'P', 'Y', 'G'],
      ['R', 'P', 'Y', 'O'],
      ['Y', 'B', 'G', 'O'],
      ['Y', 'B', 'G', 'R'],
      ['Y', 'B', 'G', 'P'],
      ['Y', 'B', 'O', 'G'],
      ['Y', 'B', 'O', 'R'],
      ['Y', 'B', 'O', 'P'],
      ['Y', 'B', 'R', 'G'],
      ['Y', 'B', 'R', 'O'],
      ['Y', 'B', 'R', 'P'],
      ['Y', 'B', 'P', 'G'],
      ['Y', 'B', 'P', 'O'],
      ['Y', 'B', 'P', 'R'],
      ['Y', 'G', 'B', 'O'],
      ['Y', 'G', 'B', 'R'],
      ['Y', 'G', 'B', 'P'],
      ['Y', 'G', 'O', 'B'],
      ['Y', 'G', 'O', 'R'],
      ['Y', 'G', 'O', 'P'],
      ['Y', 'G', 'R', 'B'],
      ['Y', 'G', 'R', 'O'],
      ['Y', 'G', 'R', 'P'],
      ['Y', 'G', 'P', 'B'],
      ['Y', 'G', 'P', 'O'],
      ['Y', 'G', 'P', 'R'],
      ['Y', 'O', 'B', 'G'],
      ['Y', 'O', 'B', 'R'],
      ['Y', 'O', 'B', 'P'],
      ['Y', 'O', 'G', 'B'],
      ['Y', 'O', 'G', 'R'],
      ['Y', 'O', 'G', 'P'],
      ['Y', 'O', 'R', 'B'],
      ['Y', 'O', 'R', 'G'],
      ['Y', 'O', 'R', 'P'],
      ['Y', 'O', 'P', 'B'],
      ['Y', 'O', 'P', 'G'],
      ['Y', 'O', 'P', 'R'],
      ['Y', 'R', 'B', 'G'],
      ['Y', 'R', 'B', 'O'],
      ['Y', 'R', 'B', 'P'],
      ['Y', 'R', 'G', 'B'],
      ['Y', 'R', 'G', 'O'],
      ['Y', 'R', 'G', 'P'],
      ['Y', 'R', 'O', 'B'],
      ['Y', 'R', 'O', 'G'],
      ['Y', 'R', 'O', 'P'],
      ['Y', 'R', 'P', 'B'],
      ['Y', 'R', 'P', 'G'],
      ['Y', 'R', 'P', 'O'],
      ['Y', 'P', 'B', 'G'],
      ['Y', 'P', 'B', 'O'],
      ['Y', 'P', 'B', 'R'],
      ['Y', 'P', 'G', 'B'],
      ['Y', 'P', 'G', 'O'],
      ['Y', 'P', 'G', 'R'],
      ['Y', 'P', 'O', 'B'],
      ['Y', 'P', 'O', 'G'],
      ['Y', 'P', 'O', 'R'],
      ['Y', 'P', 'R', 'B'],
      ['Y', 'P', 'R', 'G'],
      ['Y', 'P', 'R', 'O'],
      ['P', 'B', 'G', 'O'],
      ['P', 'B', 'G', 'R'],
      ['P', 'B', 'G', 'Y'],
      ['P', 'B', 'O', 'G'],
      ['P', 'B', 'O', 'R'],
      ['P', 'B', 'O', 'Y'],
      ['P', 'B', 'R', 'G'],
      ['P', 'B', 'R', 'O'],
      ['P', 'B', 'R', 'Y'],
      ['P', 'B', 'Y', 'G'],
      ['P', 'B', 'Y', 'O'],
      ['P', 'B', 'Y', 'R'],
      ['P', 'G', 'B', 'O'],
      ['P', 'G', 'B', 'R'],
      ['P', 'G', 'B', 'Y'],
      ['P', 'G', 'O', 'B'],
      ['P', 'G', 'O', 'R'],
      ['P', 'G', 'O', 'Y'],
      ['P', 'G', 'R', 'B'],
      ['P', 'G', 'R', 'O'],
      ['P', 'G', 'R', 'Y'],
      ['P', 'G', 'Y', 'B'],
      ['P', 'G', 'Y', 'O'],
      ['P', 'G', 'Y', 'R'],
      ['P', 'O', 'B', 'G'],
      ['P', 'O', 'B', 'R'],
      ['P', 'O', 'B', 'Y'],
      ['P', 'O', 'G', 'B'],
      ['P', 'O', 'G', 'R'],
      ['P', 'O', 'G', 'Y'],
      ['P', 'O', 'R', 'B'],
      ['P', 'O', 'R', 'G'],
      ['P', 'O', 'R', 'Y'],
      ['P', 'O', 'Y', 'B'],
      ['P', 'O', 'Y', 'G'],
      ['P', 'O', 'Y', 'R'],
      ['P', 'R', 'B', 'G'],
      ['P', 'R', 'B', 'O'],
      ['P', 'R', 'B', 'Y'],
      ['P', 'R', 'G', 'B'],
      ['P', 'R', 'G', 'O'],
      ['P', 'R', 'G', 'Y'],
      ['P', 'R', 'O', 'B'],
      ['P', 'R', 'O', 'G'],
      ['P', 'R', 'O', 'Y'],
      ['P', 'R', 'Y', 'B'],
      ['P', 'R', 'Y', 'G'],
      ['P', 'R', 'Y', 'O'],
      ['P', 'Y', 'B', 'G'],
      ['P', 'Y', 'B', 'O'],
      ['P', 'Y', 'B', 'R'],
      ['P', 'Y', 'G', 'B'],
      ['P', 'Y', 'G', 'O'],
      ['P', 'Y', 'G', 'R'],
      ['P', 'Y', 'O', 'B'],
      ['P', 'Y', 'O', 'G'],
      ['P', 'Y', 'O', 'R'],
      ['P', 'Y', 'R', 'B'],
      ['P', 'Y', 'R', 'G'],
      ['P', 'Y', 'R', 'O']] : List Code),
    (loopRun (honest s) 7 none S0 []).2.Nodup :=
  List.forall_mem_cons.mpr ⟨nodup_of_eq rs140 (by decide),
  List.forall_mem_cons.mpr ⟨nodup_of_eq rs141 (by decide),
  List.forall_mem_cons.mpr ⟨nodup_of_eq rs142 (by decide),
  List.forall_mem_cons.mpr ⟨nodup_of_eq rs143 (by decide),
  List.forall_mem_cons.mpr ⟨nodup_of_eq rs144 (by decide),
  List.forall_mem_cons.mpr ⟨nodup_of_eq rs145 (by decide),
  List.forall_mem_cons.mpr ⟨nodup_of_eq rs146 (by decide),
  List.forall_mem_cons.mpr ⟨nodup_of_eq rs147 (by decide),
  List.forall_mem_cons.mpr ⟨nodup_of_eq rs148 (by decide),
  List.forall_mem_cons.mpr ⟨nodup_of_eq rs149 (by decide),
  ntl15⟩⟩⟩⟩⟩⟩⟩⟩⟩⟩


lemma ntl13 : ∀ s ∈ ([['O', 'B', 'P', 'R'],
      ['O', 'B', 'P', 'Y'],
      ['O', 'G', 'B', 'R'],
      ['O', 'G', 'B', 'Y'],
      ['O', 'G', 'B', 'P'],
      ['O', 'G', 'R', 'B'],
      ['O', 'G', 'R', 'Y'],
      ['O', 'G', 'R', 'P'],
      ['O', 'G', 'Y', 'B'],
      ['O', 'G', 'Y', 'R'],
      ['O', 'G', 'Y', 'P'],
      ['O', 'G', 'P', 'B'],
      ['O', 'G', 'P', 'R'],
      ['O', 'G', 'P', 'Y'],
      ['O', 'R', 'B', 'G'],
      ['O', 'R', 'B', 'Y'],
      ['O', 'R', 'B', 'P'],
      ['O', 'R', 'G', 'B'],
      ['O', 'R', 'G', 'Y'],
      ['O', 'R', 'G', 'P'],
      ['O', 'R', 'Y', 'B'],
      ['O', 'R', 'Y', 'G'],
      ['O', 'R', 'Y', 'P'],
      ['O', 'R', 'P', 'B'],
      ['O', 'R', 'P', 'G'],
      ['O', 'R', 'P', 'Y'],
      ['O', 'Y', 'B', 'G'],
      ['O', 'Y', 'B', 'R'],
      ['O', 'Y', 'B', 'P'],
      ['O', 'Y', 'G', 'B'],
      ['O', 'Y', 'G', 'R'],
      ['O', 'Y', 'G', 'P'],
      ['O', 'Y', 'R', 'B'],
      ['O', 'Y', 'R', 'G'],
      ['O', 'Y', 'R', 'P'],
      ['O', 'Y', 'P', 'B'],
      ['O', 'Y', 'P', 'G'],
      ['O', 'Y', 'P', 'R'],
      ['O', 'P', 'B', 'G'],
      ['O', 'P', 'B', 'R'],
      ['O', 'P', 'B', 'Y'],
      ['O', 'P', 'G', 'B'],
      ['O', 'P', 'G', 'R'],
      ['O', 'P', 'G', 'Y'],
      ['O', 'P', 'R', 'B'],
      ['O', 'P', 'R', 'G'],
      ['O', 'P', 'R', 'Y'],
      ['O', 'P', 'Y', 'B'],
      ['O', 'P', 'Y', 'G'],
      ['O', 'P', 'Y', 'R'],
      ['R', 'B', 'G', 'O'],
      ['R', 'B', 'G', 'Y'],
      ['R', 'B', 'G', 'P'],
      ['R', 'B', 'O', 'G'],
      ['R', 'B', 'O', 'Y'],
      ['R', 'B', 'O', 'P'],
      ['R', 'B', 'Y', 'G'],
      ['R', 'B', 'Y', 'O'],
      ['R', 'B', 'Y', 'P'],
      ['R', 'B', 'P', 'G'],
      ['R', 'B', 'P', 'O'],
      ['R', 'B', 'P', 'Y'],
      ['R', 'G', 'B', 'O'],
      ['R', 'G', 'B', 'Y'],
      ['R', 'G', 'B', 'P'],
      ['R', 'G', 'O', 'B'],
      ['R', 'G', 'O', 'Y'],
      ['R', 'G', 'O', 'P'],
      ['R', 'G', 'Y', 'B'],
      ['R', 'G', 'Y', 'O'],
      ['R', 'G', 'Y', 'P'],
      ['R', 'G', 'P', 'B'],
      ['R', 'G', 'P', 'O'],
      ['R', 'G', 'P', 'Y'],
      ['R', 'O', 'B', 'G'],
      ['R', 'O', 'B', 'Y'],
      ['R', 'O', 'B', 'P'],
      ['R', 'O', 'G', 'B'],
      ['R', 'O', 'G', 'Y'],
      ['R', 'O', 'G', 'P'],
      ['R', 'O', 'Y', 'B'],
      ['R', 'O', 'Y', 'G'],
      ['R', 'O', 'Y', 'P'],
      ['R', 'O', 'P', 'B'],
      ['R', 'O', 'P', 'G'],
      ['R', 'O', 'P', 'Y'],
      ['R', 'Y', 'B', 'G'],
      ['R', 'Y', 'B', 'O'],
      ['R', 'Y', 'B', 'P'],
      ['R', 'Y', 'G', 'B'],
      ['R', 'Y', 'G', 'O'],
      ['R', 'Y', 'G', 'P'],
      ['R', 'Y', 'O', 'B'],
      ['R', 'Y', 'O', 'G'],
      ['R', 'Y', 'O', 'P'],
      ['R', 'Y', 'P', 'B'],
      ['R', 'Y', 'P', 'G'],
      ['R', 'Y', 'P', 'O'],
      ['R', 'P', 'B', 'G'],
      ['R', 'P', 'B', 'O'],
      ['R', 'P', 'B', 'Y'],
      ['R', 'P', 'G', 'B'],
      ['R', 'P', 'G', 'O'],
      ['R', 'P', 'G', 'Y'],
      ['R', 'P', 'O', 'B'],
      ['R', 'P', 'O', 'G'],
      ['R', 'P', 'O', 'Y'],
      ['R', 'P', 'Y', 'B'],
      ['R', 'P', 'Y', 'G'],
      ['R', 'P', 'Y', 'O'],
      ['Y', 'B', 'G', 'O'],
      ['Y', 'B', 'G', 'R'],
      ['Y', 'B', 'G', 'P'],
      ['Y', 'B', 'O', 'G'],
      ['Y', 'B', 'O', 'R'],
      ['Y', 'B', 'O', 'P'],
      ['Y', 'B', 'R', 'G'],
      ['Y', 'B', 'R', 'O'],
      ['Y', 'B', 'R', 'P'],
      ['Y', 'B', 'P', 'G'],
      ['Y', 'B', 'P', 'O'],
      ['Y', 'B', 'P', 'R'],
      ['Y', 'G', 'B', 'O'],
      ['Y', 'G', 'B', 'R'],
      ['Y', 'G', 'B', 'P'],
      ['Y', 'G', 'O', 'B'],
      ['Y', 'G', 'O', 'R'],
      ['Y', 'G', 'O', 'P'],
      ['Y', 'G', 'R', 'B'],
      ['Y', 'G', 'R', 'O'],
      ['Y', 'G', 'R', 'P'],
      ['Y', 'G', 'P', 'B'],
      ['Y', 'G', 'P', 'O'],
      ['Y', 'G', 'P', 'R'],
      ['Y', 'O', 'B', 'G'],
      ['Y', 'O', 'B', 'R'],
      ['Y', 'O', 'B', 'P'],
      ['Y', 'O', 'G', 'B'],
      ['Y', 'O', 'G', 'R'],
      ['Y', 'O', 'G', 'P'],
      ['Y', 'O', 'R', 'B'],
      ['Y', 'O', 'R', 'G'],
      ['Y', 'O', 'R', 'P'],
      ['Y', 'O', 'P', 'B'],
      ['Y', 'O', 'P', 'G'],
      ['Y', 'O', 'P', 'R'],
      ['Y', 'R', 'B', 'G'],
      ['Y', 'R', 'B', 'O'],
      ['Y', 'R', 'B', 'P'],
      ['Y', 'R', 'G', 'B'],
      ['Y', 'R', 'G', 'O'],
      ['Y', 'R', 'G', 'P'],
      ['Y', 'R', 'O', 'B'],
      ['Y', 'R', 'O', 'G'],
      ['Y', 'R', 'O', 'P'],
      ['Y', 'R', 'P', 'B'],
      ['Y', 'R', 'P', 'G'],
      ['Y', 'R', 'P', 'O'],
      ['Y', 'P', 'B', 'G'],
      ['Y', 'P', 'B', 'O'],
      ['Y', 'P', 'B', 'R'],
      ['Y', 'P', 'G', 'B'],
      ['Y', 'P', 'G', 'O'],
      ['Y', 'P', 'G', 'R'],
      ['Y', 'P', 'O', 'B'],
      ['Y', 'P', 'O', 'G'],
      ['Y', 'P', 'O', 'R'],
      ['Y', 'P', 'R', 'B'],
      ['Y', 'P', 'R', 'G'],
      ['Y', 'P', 'R', 'O'],
      ['P', 'B', 'G', 'O'],
      ['P', 'B', 'G', 'R'],
      ['P', 'B', 'G', 'Y'],
      ['P', 'B', 'O', 'G'],
      ['P', 'B', 'O', 'R'],
      ['P', 'B', 'O', 'Y'],
      ['P', 'B', 'R', 'G'],
      ['P', 'B', 'R', 'O'],
      ['P', 'B', 'R', 'Y'],
      ['P', 'B', 'Y', 'G'],
      ['P', 'B', 'Y', 'O'],
      ['P', 'B', 'Y', 'R'],
      ['P', 'G', 'B', 'O'],
      ['P', 'G', 'B', 'R'],
      ['P', 'G', 'B', 'Y'],
      ['P', 'G', 'O', 'B'],
      ['P', 'G', 'O', 'R'],
      ['P', 'G', 'O', 'Y'],
      ['P', 'G', 'R', 'B'],
      ['P', 'G', 'R', 'O'],
      ['P', 'G', 'R', 'Y'],
      ['P', 'G', 'Y', 'B'],
      ['P', 'G', 'Y', 'O'],
      ['P', 'G', 'Y', 'R'],
      ['P', 'O', 'B', 'G'],
      ['P', 'O', 'B', 'R'],
      ['P', 'O', 'B', 'Y'],
      ['P', 'O', 'G', 'B'],
      ['P', 'O', 'G', 'R'],
      ['P', 'O', 'G', 'Y'],
      ['P', 'O', 'R', 'B'],
      ['P', 'O', 'R', 'G'],
      ['P', 'O', 'R', 'Y'],
      ['P', 'O', 'Y', 'B'],
      ['P', 'O', 'Y', 'G'],
      ['P', 'O', 'Y', 'R'],
      ['P', 'R', 'B', 'G'],
      ['P', 'R', 'B', 'O'],
      ['P', 'R', 'B', 'Y'],
      ['P', 'R', 'G', 'B'],
      ['P', 'R', 'G', 'O'],
      ['P', 'R', 'G', 'Y'],
      ['P', 'R', 'O', 'B'],
      ['P', 'R', 'O', 'G'],
      ['P', 'R', 'O', 'Y'],
      ['P', 'R', 'Y', 'B'],
      ['P', 'R', 'Y', 'G'],
      ['P', 'R', 'Y', 'O'],
      ['P', 'Y', 'B', 'G'],
      ['P', 'Y', 'B', 'O'],
      ['P', 'Y', 'B', 'R'],
      ['P', 'Y', 'G', 'B'],
      ['P', 'Y', 'G', 'O'],
      ['P', 'Y', 'G', 'R'],
      ['P', 'Y', 'O', 'B'],
      ['P', 'Y', 'O', 'G'],
      ['P', 'Y', 'O', 'R'],
      ['P', 'Y', 'R', 'B'],
      ['P', 'Y', 'R', 'G'],
      ['P', 'Y', 'R', 'O']] : List Code),
    (loopRun (honest s) 7 none S0 []).2.Nodup :=
  List.forall_mem_cons.mpr ⟨nodup_of_eq rs130 (by decide),
  List.forall_mem_cons.mpr ⟨nodup_of_eq rs131 (by decide),
  List.forall_mem_cons.mpr ⟨nodup_of_eq rs132 (by decide),
  List.forall_mem_cons.mpr ⟨nodup_of_eq rs133 (by decide),
  List.forall_mem_cons.mpr ⟨nodup_of_eq rs134 (by decide),
  List.forall_mem_cons.mpr ⟨nodup_of_eq rs135 (by decide),
  List.forall_mem_cons.mpr ⟨nodup_of_eq rs136 (by decide),
  List.forall_mem_cons.mpr ⟨nodup_of_eq rs137 (by decide),
  List.forall_mem_cons.mpr ⟨nodup_of_eq rs138 (by decide),
  List.forall_mem_cons.mpr ⟨nodup_of_eq rs139 (by decide),
  ntl14⟩⟩⟩⟩⟩⟩⟩⟩⟩⟩


lemma ntl12 : ∀ s ∈ ([['O', 'B', 'G', 'R'],
      ['O', 'B', 'G', 'Y'],
      ['O', 'B', 'G', 'P'],
      ['O', 'B', 'R', 'G'],
      ['O', 'B', 'R', 'Y'],
      ['O', 'B', 'R', 'P'],
      ['O', 'B', 'Y', 'G'],
      ['O', 'B', 'Y', 'R'],
      ['O', 'B', 'Y', 'P'],
      ['O', 'B', 'P', 'G'],
      ['O', 'B', 'P', 'R'],
      ['O', 'B', 'P', 'Y'],
      ['O', 'G', 'B', 'R'],
      ['O', 'G', 'B', 'Y'],
      ['O', 'G', 'B', 'P'],
      ['O', 'G', 'R', 'B'],
      ['O', 'G', 'R', 'Y'],
      ['O', 'G', 'R', 'P'],
      ['O', 'G', 'Y', 'B'],
      ['O', 'G', 'Y', 'R'],
      ['O', 'G', 'Y', 'P'],
      ['O', 'G', 'P', 'B'],
      ['O', 'G', 'P', 'R'],
      ['O', 'G', 'P', 'Y'],
      ['O', 'R', 'B', 'G'],
      ['O', 'R', 'B', 'Y'],
      ['O', 'R', 'B', 'P'],
      ['O', 'R', 'G', 'B'],
      ['O', 'R', 'G', 'Y'],
      ['O', 'R', 'G', 'P'],
      ['O', 'R', 'Y', 'B'],
      ['O', 'R', 'Y', 'G'],
      ['O', 'R', 'Y', 'P'],
      ['O', 'R', 'P', 'B'],
      ['O', 'R', 'P', 'G'],
      ['O', 'R', 'P', 'Y'],
      ['O', 'Y', 'B', 'G'],
      ['O', 'Y', 'B', 'R'],
      ['O', 'Y', 'B', 'P'],
      ['O', 'Y', 'G', 'B'],
      ['O', 'Y', 'G', 'R'],
      ['O', 'Y', 'G', 'P'],
      ['O', 'Y', 'R', 'B'],
      ['O', 'Y', 'R', 'G'],
      ['O', 'Y', 'R', 'P'],
      ['O', 'Y', 'P', 'B'],
      ['O', 'Y', 'P', 'G'],
      ['O', 'Y', 'P', 'R'],
      ['O', 'P', 'B', 'G'],
      ['O', 'P', 'B', 'R'],
      ['O', 'P', 'B', 'Y'],
      ['O', 'P', 'G', 'B'],
      ['O', 'P', 'G', 'R'],
      ['O', 'P', 'G', 'Y'],
      ['O', 'P', 'R', 'B'],
      ['O', 'P', 'R', 'G'],
      ['O', 'P', 'R', 'Y'],
      ['O', 'P', 'Y', 'B'],
      ['O', 'P', 'Y', 'G'],
      ['O', 'P', 'Y', 'R'],
      ['R', 'B', 'G', 'O'],
      ['R', 'B', 'G', 'Y'],
      ['R', 'B', 'G', 'P'],
      ['R', 'B', 'O', 'G'],
      ['R', 'B', 'O', 'Y'],
      ['R', 'B', 'O', 'P'],
      ['R', 'B', 'Y', 'G'],
      ['R', 'B', 'Y', 'O'],
      ['R', 'B', 'Y', 'P'],
      ['R', 'B', 'P', 'G'],
      ['R', 'B', 'P', 'O'],
      ['R', 'B', 'P', 'Y'],
      ['R', 'G', 'B', 'O'],
      ['R', 'G', 'B', 'Y'],
      ['R', 'G', 'B', 'P'],
      ['R', 'G', 'O', 'B'],
      ['R', 'G', 'O', 'Y'],
      ['R', 'G', 'O', 'P'],
      ['R', 'G', 'Y', 'B'],
      ['R', 'G', 'Y', 'O'],
      ['R', 'G', 'Y', 'P'],
      ['R', 'G', 'P', 'B'],
      ['R', 'G', 'P', 'O'],
      ['R', 'G', 'P', 'Y'],
      ['R', 'O', 'B', 'G'],
      ['R', 'O', 'B', 'Y'],
      ['R', 'O', 'B', 'P'],
      ['R', 'O', 'G', 'B'],
      ['R', 'O', 'G', 'Y'],
      ['R', 'O', 'G', 'P'],
      ['R', 'O', 'Y', 'B'],
      ['R', 'O', 'Y', 'G'],
      ['R', 'O', 'Y', 'P'],
      ['R', 'O', 'P', 'B'],
      ['R', 'O', 'P', 'G'],
      ['R', 'O', 'P', 'Y'],
      ['R', 'Y', 'B', 'G'],
      ['R', 'Y', 'B', 'O'],
      ['R', 'Y', 'B', 'P'],
      ['R', 'Y', 'G', 'B'],
      ['R', 'Y', 'G', 'O'],
      ['R', 'Y', 'G', 'P'],
      ['R', 'Y', 'O', 'B'],
      ['R', 'Y', 'O', 'G'],
      ['R', 'Y', 'O', 'P'],
      ['R', 'Y', 'P', 'B'],
      ['R', 'Y', 'P', 'G'],
      ['R', 'Y', 'P', 'O'],
      ['R', 'P', 'B', 'G'],
      ['R', 'P', 'B', 'O'],
      ['R', 'P', 'B', 'Y'],
      ['R', 'P', 'G', 'B'],
      ['R', 'P', 'G', 'O'],
      ['R', 'P', 'G', 'Y'],
      ['R', 'P', 'O', 'B'],
      ['R', 'P', 'O', 'G'],
      ['R', 'P', 'O', 'Y'],
      ['R', 'P', 'Y', 'B'],
      ['R', 'P', 'Y', 'G'],
      ['R', 'P', 'Y', 'O'],
      ['Y', 'B', 'G', 'O'],
      ['Y', 'B', 'G', 'R'],
      ['Y', 'B', 'G', 'P'],
      ['Y', 'B', 'O', 'G'],
      ['Y', 'B', 'O', 'R'],
      ['Y', 'B', 'O', 'P'],
      ['Y', 'B', 'R', 'G'],
      ['Y', 'B', 'R', 'O'],
      ['Y', 'B', 'R', 'P'],
      ['Y', 'B', 'P', 'G'],
      ['Y', 'B', 'P', 'O'],
      ['Y', 'B', 'P', 'R'],
      ['Y', 'G', 'B', 'O'],
      ['Y', 'G', 'B', 'R'],
      ['Y', 'G', 'B', 'P'],
      ['Y', 'G', 'O', 'B'],
      ['Y', 'G', 'O', 'R'],
      ['Y', 'G', 'O', 'P'],
      ['Y', 'G', 'R', 'B'],
      ['Y', 'G', 'R', 'O'],
      ['Y', 'G', 'R', 'P'],
      ['Y', 'G', 'P', 'B'],
      ['Y', 'G', 'P', 'O'],
      ['Y', 'G', 'P', 'R'],
      ['Y', 'O', 'B', 'G'],
      ['Y', 'O', 'B', 'R'],
      ['Y', 'O', 'B', 'P'],
      ['Y', 'O', 'G', 'B'],
      ['Y', 'O', 'G', 'R'],
      ['Y', 'O', 'G', 'P'],
      ['Y', 'O', 'R', 'B'],
      ['Y', 'O', 'R', 'G'],
      ['Y', 'O', 'R', 'P'],
      ['Y', 'O', 'P', 'B'],
      ['Y', 'O', 'P', 'G'],
      ['Y', 'O', 'P', 'R'],
      ['Y', 'R', 'B', 'G'],
      ['Y', 'R', 'B', 'O'],
      ['Y', 'R', 'B', 'P'],
      ['Y', 'R', 'G', 'B'],
      ['Y', 'R', 'G', 'O'],
      ['Y', 'R', 'G', 'P'],
      ['Y', 'R', 'O', 'B'],
      ['Y', 'R', 'O', 'G'],
      ['Y', 'R', 'O', 'P'],
      ['Y', 'R', 'P', 'B'],
      ['Y', 'R', 'P', 'G'],
      ['Y', 'R', 'P', 'O'],
      ['Y', 'P', 'B', 'G'],
      ['Y', 'P', 'B', 'O'],
      ['Y', 'P', 'B', 'R'],
      ['Y', 'P', 'G', 'B'],
      ['Y', 'P', 'G', 'O'],
      ['Y', 'P', 'G', 'R'],
      ['Y', 'P', 'O', 'B'],
      ['Y', 'P', 'O', 'G'],
      ['Y', 'P', 'O', 'R'],
      ['Y', 'P', 'R', 'B'],
      ['Y', 'P', 'R', 'G'],
      ['Y', 'P', 'R', 'O'],
      ['P', 'B', 'G', 'O'],
      ['P', 'B', 'G', 'R'],
      ['P', 'B', 'G', 'Y'],
      ['P', 'B', 'O', 'G'],
      ['P', 'B', 'O', 'R'],
      ['P', 'B', 'O', 'Y'],
      ['P', 'B', 'R', 'G'],
      ['P', 'B', 'R', 'O'],
      ['P', 'B', 'R', 'Y'],
      ['P', 'B', 'Y', 'G'],
      ['P', 'B', 'Y', 'O'],
      ['P', 'B', 'Y', 'R'],
      ['P', 'G', 'B', 'O'],
      ['P', 'G', 'B', 'R'],
      ['P', 'G', 'B', 'Y'],
      ['P', 'G', 'O', 'B'],
      ['P', 'G', 'O', 'R'],
      ['P', 'G', 'O', 'Y'],
      ['P', 'G', 'R', 'B'],
      ['P', 'G', 'R', 'O'],
      ['P', 'G', 'R', 'Y'],
      ['P', 'G', 'Y', 'B'],
      ['P', 'G', 'Y', 'O'],
      ['P', 'G', 'Y', 'R'],
      ['P', 'O', 'B', 'G'],
      ['P', 'O', 'B', 'R'],
      ['P', 'O', 'B', 'Y'],
      ['P', 'O', 'G', 'B'],
      ['P', 'O', 'G', 'R'],
      ['P', 'O', 'G', 'Y'],
      ['P', 'O', 'R', 'B'],
      ['P', 'O', 'R', 'G'],
      ['P', 'O', 'R', 'Y'],
      ['P', 'O', 'Y', 'B'],
      ['P', 'O', 'Y', 'G'],
      ['P', 'O', 'Y', 'R'],
      ['P', 'R', 'B', 'G'],
      ['P', 'R', 'B', 'O'],
      ['P', 'R', 'B', 'Y'],
      ['P', 'R', 'G', 'B'],
      ['P', 'R', 'G', 'O'],
      ['P', 'R', 'G', 'Y'],
      ['P', 'R', 'O', 'B'],
      ['P', 'R', 'O', 'G'],
      ['P', 'R', 'O', 'Y'],
      ['P', 'R', 'Y', 'B'],
      ['P', 'R', 'Y', 'G'],
      ['P', 'R', 'Y', 'O'],
      ['P', 'Y', 'B', 'G'],
      ['P', 'Y', 'B', 'O'],
      ['P', 'Y', 'B', 'R'],
      ['P', 'Y', 'G', 'B'],
      ['P', 'Y', 'G', 'O'],
      ['P', 'Y', 'G', 'R'],
      ['P', 'Y', 'O', 'B'],
      ['P', 'Y', 'O', 'G'],
      ['P', 'Y', 'O', 'R'],
      ['P', 'Y', 'R', 'B'],
      ['P', 'Y', 'R', 'G'],
      ['P', 'Y', 'R', 'O']] : List Code),
    (loopRun (honest s) 7 none S0 []).2.Nodup :=
  List.forall_mem_cons.mpr ⟨nodup_of_eq rs120 (by decide),
  List.forall_mem_cons.mpr ⟨nodup_of_eq rs121 (by decide),
  List.forall_mem_cons.mpr ⟨nodup_of_eq rs122 (by decide),
  List.forall_mem_cons.mpr ⟨nodup_of_eq rs123 (by decide),
  List.forall_mem_cons.mpr ⟨nodup_of_eq rs124 (by decide),
  List.forall_mem_cons.mpr ⟨nodup_of_eq rs125 (by decide),
  List.forall_mem_cons.mpr ⟨nodup_of_eq rs126 (by decide),
  List.forall_mem_cons.mpr ⟨nodup_of_eq rs127 (by decide),
  List.forall_mem_cons.mpr ⟨nodup_of_eq rs128 (by decide),
  List.forall_mem_cons.mpr ⟨nodup_of_eq rs129 (by decide),
  ntl13⟩⟩⟩⟩⟩⟩⟩⟩⟩⟩


lemma ntl11 : ∀ s ∈ ([['G', 'P', 'B', 'Y'],
      ['G', 'P', 'O', 'B'],
      ['G', 'P', 'O', 'R'],
      ['G', 'P', 'O', 'Y'],
      ['G', 'P', 'R', 'B'],
      ['G', 'P', 'R', 'O'],
      ['G', 'P', 'R', 'Y'],
      ['G', 'P', 'Y', 'B'],
      ['G', 'P', 'Y', 'O'],
      ['G', 'P', 'Y', 'R'],
      ['O', 'B', 'G', 'R'],
      ['O', 'B', 'G', 'Y'],
      ['O', 'B', 'G', 'P'],
      ['O', 'B', 'R', 'G'],
      ['O', 'B', 'R', 'Y'],
      ['O', 'B', 'R', 'P'],
      ['O', 'B', 'Y', 'G'],
      ['O', 'B', 'Y', 'R'],
      ['O', 'B', 'Y', 'P'],
      ['O', 'B', 'P', 'G'],
      ['O', 'B', 'P', 'R'],
      ['O', 'B', 'P', 'Y'],
      ['O', 'G', 'B', 'R'],
      ['O', 'G', 'B', 'Y'],
      ['O', 'G', 'B', 'P'],
      ['O', 'G', 'R', 'B'],
      ['O', 'G', 'R', 'Y'],
      ['O', 'G', 'R', 'P'],
      ['O', 'G', 'Y', 'B'],
      ['O', 'G', 'Y', 'R'],
      ['O', 'G', 'Y', 'P'],
      ['O', 'G', 'P', 'B'],
      ['O', 'G', 'P', 'R'],
      ['O', 'G', 'P', 'Y'],
      ['O', 'R', 'B', 'G'],
      ['O', 'R', 'B', 'Y'],
      ['O', 'R', 'B', 'P'],
      ['O', 'R', 'G', 'B'],
      ['O', 'R', 'G', 'Y'],
      ['O', 'R', 'G', 'P'],
      ['O', 'R', 'Y', 'B'],
      ['O', 'R', 'Y', 'G'],
      ['O', 'R', 'Y', 'P'],
      ['O', 'R', 'P', 'B'],
      ['O', 'R', 'P', 'G'],
      ['O', 'R', 'P', 'Y'],
      ['O', 'Y', 'B', 'G'],
      ['O', 'Y', 'B', 'R'],
      ['O', 'Y', 'B', 'P'],
      ['O', 'Y', 'G', 'B'],
      ['O', 'Y', 'G', 'R'],
      ['O', 'Y', 'G', 'P'],
      ['O', 'Y', 'R', 'B'],
      ['O', 'Y', 'R', 'G'],
      ['O', 'Y', 'R', 'P'],
      ['O', 'Y', 'P', 'B'],
      ['O', 'Y', 'P', 'G'],
      ['O', 'Y', 'P', 'R'],
      ['O', 'P', 'B', 'G'],
      ['O', 'P', 'B', 'R'],
      ['O', 'P', 'B', 'Y'],
      ['O', 'P', 'G', 'B'],
      ['O', 'P', 'G', 'R'],
      ['O', 'P', 'G', 'Y'],
      ['O', 'P', 'R', 'B'],
      ['O', 'P', 'R', 'G'],
      ['O', 'P', 'R', 'Y'],
      ['O', 'P', 'Y', 'B'],
      ['O', 'P', 'Y', 'G'],
      ['O', 'P', 'Y', 'R'],
      ['R', 'B', 'G', 'O'],
      ['R', 'B', 'G', 'Y'],
      ['R', 'B', 'G', 'P'],
      ['R', 'B', 'O', 'G'],
      ['R', 'B', 'O', 'Y'],
      ['R', 'B', 'O', 'P'],
      ['R', 'B', 'Y', 'G'],
      ['R', 'B', 'Y', 'O'],
      ['R', 'B', 'Y', 'P'],
      ['R', 'B', 'P', 'G'],
      ['R', 'B', 'P', 'O'],
      ['R', 'B', 'P', 'Y'],
      ['R', 'G', 'B', 'O'],
      ['R', 'G', 'B', 'Y'],
      ['R', 'G', 'B', 'P'],
      ['R', 'G', 'O', 'B'],
      ['R', 'G', 'O', 'Y'],
      ['R', 'G', 'O', 'P'],
      ['R', 'G', 'Y', 'B'],
      ['R', 'G', 'Y', 'O'],
      ['R', 'G', 'Y', 'P'],
      ['R', 'G', 'P', 'B'],
      ['R', 'G', 'P', 'O'],
      ['R', 'G', 'P', 'Y'],
      ['R', 'O', 'B', 'G'],
      ['R', 'O', 'B', 'Y'],
      ['R', 'O', 'B', 'P'],
      ['R', 'O', 'G', 'B'],
      ['R', 'O', 'G', 'Y'],
      ['R', 'O', 'G', 'P'],
      ['R', 'O', 'Y', 'B'],
      ['R', 'O', 'Y', 'G'],
      ['R', 'O', 'Y', 'P'],
      ['R', 'O', 'P', 'B'],
      ['R', 'O', 'P', 'G'],
      ['R', 'O', 'P', 'Y'],
      ['R', 'Y', 'B', 'G'],
      ['R', 'Y', 'B', 'O'],
      ['R', 'Y', 'B', 'P'],
      ['R', 'Y', 'G', 'B'],
      ['R', 'Y', 'G', 'O'],
      ['R', 'Y', 'G', 'P'],
      ['R', 'Y', 'O', 'B'],
      ['R', 'Y', 'O', 'G'],
      ['R', 'Y', 'O', 'P'],
      ['R', 'Y', 'P', 'B'],
      ['R', 'Y', 'P', 'G'],
      ['R', 'Y', 'P', 'O'],
      ['R', 'P', 'B', 'G'],
      ['R', 'P', 'B', 'O'],
      ['R', 'P', 'B', 'Y'],
      ['R', 'P', 'G', 'B'],
      ['R', 'P', 'G', 'O'],
      ['R', 'P', 'G', 'Y'],
      ['R', 'P', 'O', 'B'],
      ['R', 'P', 'O', 'G'],
      ['R', 'P', 'O', 'Y'],
      ['R', 'P', 'Y', 'B'],
      ['R', 'P', 'Y', 'G'],
      ['R', 'P', 'Y', 'O'],
      ['Y', 'B', 'G', 'O'],
      ['Y', 'B', 'G', 'R'],
      ['Y', 'B', 'G', 'P'],
      ['Y', 'B', 'O', 'G'],
      ['Y', 'B', 'O', 'R'],
      ['Y', 'B', 'O', 'P'],
      ['Y', 'B', 'R', 'G'],
      ['Y', 'B', 'R', 'O'],
      ['Y', 'B', 'R', 'P'],
      ['Y', 'B', 'P', 'G'],
      ['Y', 'B', 'P', 'O'],
      ['Y', 'B', 'P', 'R'],
      ['Y', 'G', 'B', 'O'],
      ['Y', 'G', 'B', 'R'],
      ['Y', 'G', 'B', 'P'],
      ['Y', 'G', 'O', 'B'],
      ['Y', 'G', 'O', 'R'],
      ['Y', 'G', 'O', 'P'],
      ['Y', 'G', 'R', 'B'],
      ['Y', 'G', 'R', 'O'],
      ['Y', 'G', 'R', 'P'],
      ['Y', 'G', 'P', 'B'],
      ['Y', 'G', 'P', 'O'],
      ['Y', 'G', 'P', 'R'],
      ['Y', 'O', 'B', 'G'],
      ['Y', 'O', 'B', 'R'],
      ['Y', 'O', 'B', 'P'],
      ['Y', 'O', 'G', 'B'],
      ['Y', 'O', 'G', 'R'],
      ['Y', 'O', 'G', 'P'],
      ['Y', 'O', 'R', 'B'],
      ['Y', 'O', 'R', 'G'],
      ['Y', 'O', 'R', 'P'],
      ['Y', 'O', 'P', 'B'],
      ['Y', 'O', 'P', 'G'],
      ['Y', 'O', 'P', 'R'],
      ['Y', 'R', 'B', 'G'],
      ['Y', 'R', 'B', 'O'],
      ['Y', 'R', 'B', 'P'],
      ['Y', 'R', 'G', 'B'],
      ['Y', 'R', 'G', 'O'],
      ['Y', 'R', 'G', 'P'],
      ['Y', 'R', 'O', 'B'],
      ['Y', 'R', 'O', 'G'],
      ['Y', 'R', 'O', 'P'],
      ['Y', 'R', 'P', 'B'],
      ['Y', 'R', 'P', 'G'],
      ['Y', 'R', 'P', 'O'],
      ['Y', 'P', 'B', 'G'],
      ['Y', 'P', 'B', 'O'],
      ['Y', 'P', 'B', 'R'],
      ['Y', 'P', 'G', 'B'],
      ['Y', 'P', 'G', 'O'],
      ['Y', 'P', 'G', 'R'],
      ['Y', 'P', 'O', 'B'],
      ['Y', 'P', 'O', 'G'],
      ['Y', 'P', 'O', 'R'],
      ['Y', 'P', 'R', 'B'],
      ['Y', 'P', 'R', 'G'],
      ['Y', 'P', 'R', 'O'],
      ['P', 'B', 'G', 'O'],
      ['P', 'B', 'G', 'R'],
      ['P', 'B', 'G', 'Y'],
      ['P', 'B', 'O', 'G'],
      ['P', 'B', 'O', 'R'],
      ['P', 'B', 'O', 'Y'],
      ['P', 'B', 'R', 'G'],
      ['P', 'B', 'R', 'O'],
      ['P', 'B', 'R', 'Y'],
      ['P', 'B', 'Y', 'G'],
      ['P', 'B', 'Y', 'O'],
      ['P', 'B', 'Y', 'R'],
      ['P', 'G', 'B', 'O'],
      ['P', 'G', 'B', 'R'],
      ['P', 'G', 'B', 'Y'],
      ['P', 'G', 'O', 'B'],
      ['P', 'G', 'O', 'R'],
      ['P', 'G', 'O', 'Y'],
      ['P', 'G', 'R', 'B'],
      ['P', 'G', 'R', 'O'],
      ['P', 'G', 'R', 'Y'],
      ['P', 'G', 'Y', 'B'],
      ['P', 'G', 'Y', 'O'],
      ['P', 'G', 'Y', 'R'],
      ['P', 'O', 'B', 'G'],
      ['P', 'O', 'B', 'R'],
      ['P', 'O', 'B', 'Y'],
      ['P', 'O', 'G', 'B'],
      ['P', 'O', 'G', 'R'],
      ['P', 'O', 'G', 'Y'],
      ['P', 'O', 'R', 'B'],
      ['P', 'O', 'R', 'G'],
      ['P', 'O', 'R', 'Y'],
      ['P', 'O', 'Y', 'B'],
      ['P', 'O', 'Y', 'G'],
      ['P', 'O', 'Y', 'R'],
      ['P', 'R', 'B', 'G'],
      ['P', 'R', 'B', 'O'],
      ['P', 'R', 'B', 'Y'],
      ['P', 'R', 'G', 'B'],
      ['P', 'R', 'G', 'O'],
      ['P', 'R', 'G', 'Y'],
      ['P', 'R', 'O', 'B'],
      ['P', 'R', 'O', 'G'],
      ['P', 'R', 'O', 'Y'],
      ['P', 'R', 'Y', 'B'],
      ['P', 'R', 'Y', 'G'],
      ['P', 'R', 'Y', 'O'],
      ['P', 'Y', 'B', 'G'],
      ['P', 'Y', 'B', 'O'],
      ['P', 'Y', 'B', 'R'],
      ['P', 'Y', 'G', 'B'],
      ['P', 'Y', 'G', 'O'],
      ['P', 'Y', 'G', 'R'],
      ['P', 'Y', 'O', 'B'],
      ['P', 'Y', 'O', 'G'],
      ['P', 'Y', 'O', 'R'],
      ['P', 'Y', 'R', 'B'],
      ['P', 'Y', 'R', 'G'],
      ['P', 'Y', 'R', 'O']] : List Code),
    (loopRun (honest s) 7 none S0 []).2.Nodup :=
  List.forall_mem_cons.mpr ⟨nodup_of_eq rs110 (by decide),
  List.forall_mem_cons.mpr ⟨nodup_of_eq rs111 (by decide),
  List.forall_mem_cons.mpr ⟨nodup_of_eq rs112 (by decide),
  List.forall_mem_cons.mpr ⟨nodup_of_eq rs113 (by decide),
  List.forall_mem_cons.mpr ⟨nodup_of_eq rs114 (by decide),
  List.forall_mem_cons.mpr ⟨nodup_of_eq rs115 (by decide),
  List.forall_mem_cons.mpr ⟨nodup_of_eq rs116 (by decide),
  List.forall_mem_cons.mpr ⟨nodup_of_eq rs117 (by decide),
  List.forall_mem_cons.mpr ⟨nodup_of_eq rs118 (by decide),
  List.forall_mem_cons.mpr ⟨nodup_of_eq rs119 (by decide),
  ntl12⟩⟩⟩⟩⟩⟩⟩⟩⟩⟩


lemma ntl10 : ∀ s ∈ ([['G', 'Y', 'O', 'R'],
      ['G', 'Y', 'O', 'P'],
      ['G', 'Y', 'R', 'B'],
      ['G', 'Y', 'R', 'O'],
      ['G', 'Y', 'R', 'P'],
      ['G', 'Y', 'P', 'B'],
      ['G', 'Y', 'P', 'O'],
      ['G', 'Y', 'P', 'R'],
      ['G', 'P', 'B', 'O'],
      ['G', 'P', 'B', 'R'],
      ['G', 'P', 'B', 'Y'],
      ['G', 'P', 'O', 'B'],
      ['G', 'P', 'O', 'R'],
      ['G', 'P', 'O', 'Y'],
      ['G', 'P', 'R', 'B'],
      ['G', 'P', 'R', 'O'],
      ['G', 'P', 'R', 'Y'],
      ['G', 'P', 'Y', 'B'],
      ['G', 'P', 'Y', 'O'],
      ['G', 'P', 'Y', 'R'],
      ['O', 'B', 'G', 'R'],
      ['O', 'B', 'G', 'Y'],
      ['O', 'B', 'G', 'P'],
      ['O', 'B', 'R', 'G'],
      ['O', 'B', 'R', 'Y'],
      ['O', 'B', 'R', 'P'],
      ['O', 'B', 'Y', 'G'],
      ['O', 'B', 'Y', 'R'],
      ['O', 'B', 'Y', 'P'],
      ['O', 'B', 'P', 'G'],
      ['O', 'B', 'P', 'R'],
      ['O', 'B', 'P', 'Y'],
      ['O', 'G', 'B', 'R'],
      ['O', 'G', 'B', 'Y'],
      ['O', 'G', 'B', 'P'],
      ['O', 'G', 'R', 'B'],
      ['O', 'G', 'R', 'Y'],
      ['O', 'G', 'R', 'P'],
      ['O', 'G', 'Y', 'B'],
      ['O', 'G', 'Y', 'R'],
      ['O', 'G', 'Y', 'P'],
      ['O', 'G', 'P', 'B'],
      ['O', 'G', 'P', 'R'],
      ['O', 'G', 'P', 'Y'],
      ['O', 'R', 'B', 'G'],
      ['O', 'R', 'B', 'Y'],
      ['O', 'R', 'B', 'P'],
      ['O', 'R', 'G', 'B'],
      ['O', 'R', 'G', 'Y'],
      ['O', 'R', 'G', 'P'],
      ['O', 'R', 'Y', 'B'],
      ['O', 'R', 'Y', 'G'],
      ['O', 'R', 'Y', 'P'],
      ['O', 'R', 'P', 'B'],
      ['O', 'R', 'P', 'G'],
      ['O', 'R', 'P', 'Y'],
      ['O', 'Y', 'B', 'G'],
      ['O', 'Y', 'B', 'R'],
      ['O', 'Y', 'B', 'P'],
      ['O', 'Y', 'G', 'B'],
      ['O', 'Y', 'G', 'R'],
      ['O', 'Y', 'G', 'P'],
      ['O', 'Y', 'R', 'B'],
      ['O', 'Y', 'R', 'G'],
      ['O', 'Y', 'R', 'P'],
      ['O', 'Y', 'P', 'B'],
      ['O', 'Y', 'P', 'G'],
      ['O', 'Y', 'P', 'R'],
      ['O', 'P', 'B', 'G'],
      ['O', 'P', 'B', 'R'],
      ['O', 'P', 'B', 'Y'],
      ['O', 'P', 'G', 'B'],
      ['O', 'P', 'G', 'R'],
      ['O', 'P', 'G', 'Y'],
      ['O', 'P', 'R', 'B'],
      ['O', 'P', 'R', 'G'],
      ['O', 'P', 'R', 'Y'],
      ['O', 'P', 'Y', 'B'],
      ['O', 'P', 'Y', 'G'],
      ['O', 'P', 'Y', 'R'],
      ['R', 'B', 'G', 'O'],
      ['R', 'B', 'G', 'Y'],
      ['R', 'B', 'G', 'P'],
      ['R', 'B', 'O', 'G'],
      ['R', 'B', 'O', 'Y'],
      ['R', 'B', 'O', 'P'],
      ['R', 'B', 'Y', 'G'],
      ['R', 'B', 'Y', 'O'],
      ['R', 'B', 'Y', 'P'],
      ['R', 'B', 'P', 'G'],
      ['R', 'B', 'P', 'O'],
      ['R', 'B', 'P', 'Y'],
      ['R', 'G', 'B', 'O'],
      ['R', 'G', 'B', 'Y'],
      ['R', 'G', 'B', 'P'],
      ['R', 'G', 'O', 'B'],
      ['R', 'G', 'O', 'Y'],
      ['R', 'G', 'O', 'P'],
      ['R', 'G', 'Y', 'B'],
      ['R', 'G', 'Y', 'O'],
      ['R', 'G', 'Y', 'P'],
      ['R', 'G', 'P', 'B'],
      ['R', 'G', 'P', 'O'],
      ['R', 'G', 'P', 'Y'],
      ['R', 'O', 'B', 'G'],
      ['R', 'O', 'B', 'Y'],
      ['R', 'O', 'B', 'P'],
      ['R', 'O', 'G', 'B'],
      ['R', 'O', 'G', 'Y'],
      ['R', 'O', 'G', 'P'],
      ['R', 'O', 'Y', 'B'],
      ['R', 'O', 'Y', 'G'],
      ['R', 'O', 'Y', 'P'],
      ['R', 'O', 'P', 'B'],
      ['R', 'O', 'P', 'G'],
      ['R', 'O', 'P', 'Y'],
      ['R', 'Y', 'B', 'G'],
      ['R', 'Y', 'B', 'O'],
      ['R', 'Y', 'B', 'P'],
      ['R', 'Y', 'G', 'B'],
      ['R', 'Y', 'G', 'O'],
      ['R', 'Y', 'G', 'P'],
      ['R', 'Y', 'O', 'B'],
      ['R', 'Y', 'O', 'G'],
      ['R', 'Y', 'O', 'P'],
      ['R', 'Y', 'P', 'B'],
      ['R', 'Y', 'P', 'G'],
      ['R', 'Y', 'P', 'O'],
      ['R', 'P', 'B', 'G'],
      ['R', 'P', 'B', 'O'],
      ['R', 'P', 'B', 'Y'],
      ['R', 'P', 'G', 'B'],
      ['R', 'P', 'G', 'O'],
      ['R', 'P', 'G', 'Y'],
      ['R', 'P', 'O', 'B'],
      ['R', 'P', 'O', 'G'],
      ['R', 'P', 'O', 'Y'],
      ['R', 'P', 'Y', 'B'],
      ['R', 'P', 'Y', 'G'],
      ['R', 'P', 'Y', 'O'],
      ['Y', 'B', 'G', 'O'],
      ['Y', 'B', 'G', 'R'],
      ['Y', 'B', 'G', 'P'],
      ['Y', 'B', 'O', 'G'],
      ['Y', 'B', 'O', 'R'],
      ['Y', 'B', 'O', 'P'],
      ['Y', 'B', 'R', 'G'],
      ['Y', 'B', 'R', 'O'],
      ['Y', 'B', 'R', 'P'],
      ['Y', 'B', 'P', 'G'],
      ['Y', 'B', 'P', 'O'],
      ['Y', 'B', 'P', 'R'],
      ['Y', 'G', 'B', 'O'],
      ['Y', 'G', 'B', 'R'],
      ['Y', 'G', 'B', 'P'],
      ['Y', 'G', 'O', 'B'],
      ['Y', 'G', 'O', 'R'],
      ['Y', 'G', 'O', 'P'],
      ['Y', 'G', 'R', 'B'],
      ['Y', 'G', 'R', 'O'],
      ['Y', 'G', 'R', 'P'],
      ['Y', 'G', 'P', 'B'],
      ['Y', 'G', 'P', 'O'],
      ['Y', 'G', 'P', 'R'],
      ['Y', 'O', 'B', 'G'],
      ['Y', 'O', 'B', 'R'],
      ['Y', 'O', 'B', 'P'],
      ['Y', 'O', 'G', 'B'],
      ['Y', 'O', 'G', 'R'],
      ['Y', 'O', 'G', 'P'],
      ['Y', 'O', 'R', 'B'],
      ['Y', 'O', 'R', 'G'],
      ['Y', 'O', 'R', 'P'],
      ['Y', 'O', 'P', 'B'],
      ['Y', 'O', 'P', 'G'],
      ['Y', 'O', 'P', 'R'],
      ['Y', 'R', 'B', 'G'],
      ['Y', 'R', 'B', 'O'],
      ['Y', 'R', 'B', 'P'],
      ['Y', 'R', 'G', 'B'],
      ['Y', 'R', 'G', 'O'],
      ['Y', 'R', 'G', 'P'],
      ['Y', 'R', 'O', 'B'],
      ['Y', 'R', 'O', 'G'],
      ['Y', 'R', 'O', 'P'],
      ['Y', 'R', 'P', 'B'],
      ['Y', 'R', 'P', 'G'],
      ['Y', 'R', 'P', 'O'],
      ['Y', 'P', 'B', 'G'],
      ['Y', 'P', 'B', 'O'],
      ['Y', 'P', 'B', 'R'],
      ['Y', 'P', 'G', 'B'],
      ['Y', 'P', 'G', 'O'],
      ['Y', 'P', 'G', 'R'],
      ['Y', 'P', 'O', 'B'],
      ['Y', 'P', 'O', 'G'],
      ['Y', 'P', 'O', 'R'],
      ['Y', 'P', 'R', 'B'],
      ['Y', 'P', 'R', 'G'],
      ['Y', 'P', 'R', 'O'],
      ['P', 'B', 'G', 'O'],
      ['P', 'B', 'G', 'R'],
      ['P', 'B', 'G', 'Y'],
      ['P', 'B', 'O', 'G'],
      ['P', 'B', 'O', 'R'],
      ['P', 'B', 'O', 'Y'],
      ['P', 'B', 'R', 'G'],
      ['P', 'B', 'R', 'O'],
      ['P', 'B', 'R', 'Y'],
      ['P', 'B', 'Y', 'G'],
      ['P', 'B', 'Y', 'O'],
      ['P', 'B', 'Y', 'R'],
      ['P', 'G', 'B', 'O'],
      ['P', 'G', 'B', 'R'],
      ['P', 'G', 'B', 'Y'],
      ['P', 'G', 'O', 'B'],
      ['P', 'G', 'O', 'R'],
      ['P', 'G', 'O', 'Y'],
      ['P', 'G', 'R', 'B'],
      ['P', 'G', 'R', 'O'],
      ['P', 'G', 'R', 'Y'],
      ['P', 'G', 'Y', 'B'],
      ['P', 'G', 'Y', 'O'],
      ['P', 'G', 'Y', 'R'],
      ['P', 'O', 'B', 'G'],
      ['P', 'O', 'B', 'R'],
      ['P', 'O', 'B', 'Y'],
      ['P', 'O', 'G', 'B'],
      ['P', 'O', 'G', 'R'],
      ['P', 'O', 'G', 'Y'],
      ['P', 'O', 'R', 'B'],
      ['P', 'O', 'R', 'G'],
      ['P', 'O', 'R', 'Y'],
      ['P', 'O', 'Y', 'B'],
      ['P', 'O', 'Y', 'G'],
      ['P', 'O', 'Y', 'R'],
      ['P', 'R', 'B', 'G'],
      ['P', 'R', 'B', 'O'],
      ['P', 'R', 'B', 'Y'],
      ['P', 'R', 'G', 'B'],
      ['P', 'R', 'G', 'O'],
      ['P', 'R', 'G', 'Y'],
      ['P', 'R', 'O', 'B'],
      ['P', 'R', 'O', 'G'],
      ['P', 'R', 'O', 'Y'],
      ['P', 'R', 'Y', 'B'],
      ['P', 'R', 'Y', 'G'],
      ['P', 'R', 'Y', 'O'],
      ['P', 'Y', 'B', 'G'],
      ['P', 'Y', 'B', 'O'],
      ['P', 'Y', 'B', 'R'],
      ['P', 'Y', 'G', 'B'],
      ['P', 'Y', 'G', 'O'],
      ['P', 'Y', 'G', 'R'],
      ['P', 'Y', 'O', 'B'],
      ['P', 'Y', 'O', 'G'],
      ['P', 'Y', 'O', 'R'],
      ['P', 'Y', 'R', 'B'],
      ['P', 'Y', 'R', 'G'],
      ['P', 'Y', 'R', 'O']] : List Code),
    (loopRun (honest s) 7 none S0 []).2.Nodup :=
  List.forall_mem_cons.mpr ⟨nodup_of_eq rs100 (by decide),
  List.forall_mem_cons.mpr ⟨nodup_of_eq rs101 (by decide),
  List.forall_mem_cons.mpr ⟨nodup_of_eq rs102 (by decide),
  List.forall_mem_cons.mpr ⟨nodup_of_eq rs103 (by decide),
  List.forall_mem_cons.mpr ⟨nodup_of_eq rs104 (by decide),
  List.forall_mem_cons.mpr ⟨nodup_of_eq rs105 (by decide),
  List.forall_mem_cons.mpr ⟨nodup_of_eq rs106 (by decide),
  List.forall_mem_cons.mpr ⟨nodup_of_eq rs107 (by decide),
  List.forall_mem_cons.mpr ⟨nodup_of_eq rs108 (by decide),
  List.forall_mem_cons.mpr ⟨nodup_of_eq rs109 (by decide),
  ntl11⟩⟩⟩⟩⟩⟩⟩⟩⟩⟩


lemma ntl9 : ∀ s ∈ ([['G', 'R', 'Y', 'B'],
      ['G', 'R', 'Y', 'O'],
      ['G', 'R', 'Y', 'P'],
      ['G', 'R', 'P', 'B'],
      ['G', 'R', 'P', 'O'],
      ['G', 'R', 'P', 'Y'],
      ['G', 'Y', 'B', 'O'],
      ['G', 'Y', 'B', 'R'],
      ['G', 'Y', 'B', 'P'],
      ['G', 'Y', 'O', 'B'],
      ['G', 'Y', 'O', 'R'],
      ['G', 'Y', 'O', 'P'],
      ['G', 'Y', 'R', 'B'],
      ['G', 'Y', 'R', 'O'],
      ['G', 'Y', 'R', 'P'],
      ['G', 'Y', 'P', 'B'],
      ['G', 'Y', 'P', 'O'],
      ['G', 'Y', 'P', 'R'],
      ['G', 'P', 'B', 'O'],
      ['G', 'P', 'B', 'R'],
      ['G', 'P', 'B', 'Y'],
      ['G', 'P', 'O', 'B'],
      ['G', 'P', 'O', 'R'],
      ['G', 'P', 'O', 'Y'],
      ['G', 'P', 'R', 'B'],
      ['G', 'P', 'R', 'O'],
      ['G', 'P', 'R', 'Y'],
      ['G', 'P', 'Y', 'B'],
      ['G', 'P', 'Y', 'O'],
      ['G', 'P', 'Y', 'R'],
      ['O', 'B', 'G', 'R'],
      ['O', 'B', 'G', 'Y'],
      ['O', 'B', 'G', 'P'],
      ['O', 'B', 'R', 'G'],
      ['O', 'B', 'R', 'Y'],
      ['O', 'B', 'R', 'P'],
      ['O', 'B', 'Y', 'G'],
      ['O', 'B', 'Y', 'R'],
      ['O', 'B', 'Y', 'P'],
      ['O', 'B', 'P', 'G'],
      ['O', 'B', 'P', 'R'],
      ['O', 'B', 'P', 'Y'],
      ['O', 'G', 'B', 'R'],
      ['O', 'G', 'B', 'Y'],
      ['O', 'G', 'B', 'P'],
      ['O', 'G', 'R', 'B'],
      ['O', 'G', 'R', 'Y'],
      ['O', 'G', 'R', 'P'],
      ['O', 'G', 'Y', 'B'],
      ['O', 'G', 'Y', 'R'],
      ['O', 'G', 'Y', 'P'],
      ['O', 'G', 'P', 'B'],
      ['O', 'G', 'P', 'R'],
      ['O', 'G', 'P', 'Y'],
      ['O', 'R', 'B', 'G'],
      ['O', 'R', 'B', 'Y'],
      ['O', 'R', 'B', 'P'],
      ['O', 'R', 'G', 'B'],
      ['O', 'R', 'G', 'Y'],
      ['O', 'R', 'G', 'P'],
      ['O', 'R', 'Y', 'B'],
      ['O', 'R', 'Y', 'G'],
      ['O', 'R', 'Y', 'P'],
      ['O', 'R', 'P', 'B'],
      ['O', 'R', 'P', 'G'],
      ['O', 'R', 'P', 'Y'],
      ['O', 'Y', 'B', 'G'],
      ['O', 'Y', 'B', 'R'],
      ['O', 'Y', 'B', 'P'],
      ['O', 'Y', 'G', 'B'],
      ['O', 'Y', 'G', 'R'],
      ['O', 'Y', 'G', 'P'],
      ['O', 'Y', 'R', 'B'],
      ['O', 'Y', 'R', 'G'],
      ['O', 'Y', 'R', 'P'],
      ['O', 'Y', 'P', 'B'],
      ['O', 'Y', 'P', 'G'],
      ['O', 'Y', 'P', 'R'],
      ['O', 'P', 'B', 'G'],
      ['O', 'P', 'B', 'R'],
      ['O', 'P', 'B', 'Y'],
      ['O', 'P', 'G', 'B'],
      ['O', 'P', 'G', 'R'],
      ['O', 'P', 'G', 'Y'],
      ['O', 'P', 'R', 'B'],
      ['O', 'P', 'R', 'G'],
      ['O', 'P', 'R', 'Y'],
      ['O', 'P', 'Y', 'B'],
      ['O', 'P', 'Y', 'G'],
      ['O', 'P', 'Y', 'R'],
      ['R', 'B', 'G', 'O'],
      ['R', 'B', 'G', 'Y'],
      ['R', 'B', 'G', 'P'],
      ['R', 'B', 'O', 'G'],
      ['R', 'B', 'O', 'Y'],
      ['R', 'B', 'O', 'P'],
      ['R', 'B', 'Y', 'G'],
      ['R', 'B', 'Y', 'O'],
      ['R', 'B', 'Y', 'P'],
      ['R', 'B', 'P', 'G'],
      ['R', 'B', 'P', 'O'],
      ['R', 'B', 'P', 'Y'],
      ['R', 'G', 'B', 'O'],
      ['R', 'G', 'B', 'Y'],
      ['R', 'G', 'B', 'P'],
      ['R', 'G', 'O', 'B'],
      ['R', 'G', 'O', 'Y'],
      ['R', 'G', 'O', 'P'],
      ['R', 'G', 'Y', 'B'],
      ['R', 'G', 'Y', 'O'],
      ['R', 'G', 'Y', 'P'],
      ['R', 'G', 'P', 'B'],
      ['R', 'G', 'P', 'O'],
      ['R', 'G', 'P', 'Y'],
      ['R', 'O', 'B', 'G'],
      ['R', 'O', 'B', 'Y'],
      ['R', 'O', 'B', 'P'],
      ['R', 'O', 'G', 'B'],
      ['R', 'O', 'G', 'Y'],
      ['R', 'O', 'G', 'P'],
      ['R', 'O', 'Y', 'B'],
      ['R', 'O', 'Y', 'G'],
      ['R', 'O', 'Y', 'P'],
      ['R', 'O', 'P', 'B'],
      ['R', 'O', 'P', 'G'],
      ['R', 'O', 'P', 'Y'],
      ['R', 'Y', 'B', 'G'],
      ['R', 'Y', 'B', 'O'],
      ['R', 'Y', 'B', 'P'],
      ['R', 'Y', 'G', 'B'],
      ['R', 'Y', 'G', 'O'],
      ['R', 'Y', 'G', 'P'],
      ['R', 'Y', 'O', 'B'],
      ['R', 'Y', 'O', 'G'],
      ['R', 'Y', 'O', 'P'],
      ['R', 'Y', 'P', 'B'],
      ['R', 'Y', 'P', 'G'],
      ['R', 'Y', 'P', 'O'],
      ['R', 'P', 'B', 'G'],
      ['R', 'P', 'B', 'O'],
      ['R', 'P', 'B', 'Y'],
      ['R', 'P', 'G', 'B'],
      ['R', 'P', 'G', 'O'],
      ['R', 'P', 'G', 'Y'],
      ['R', 'P', 'O', 'B'],
      ['R', 'P', 'O', 'G'],
      ['R', 'P', 'O', 'Y'],
      ['R', 'P', 'Y', 'B'],
      ['R', 'P', 'Y', 'G'],
      ['R', 'P', 'Y', 'O'],
      ['Y', 'B', 'G', 'O'],
      ['Y', 'B', 'G', 'R'],
      ['Y', 'B', 'G', 'P'],
      ['Y', 'B', 'O', 'G'],
      ['Y', 'B', 'O', 'R'],
      ['Y', 'B', 'O', 'P'],
      ['Y', 'B', 'R', 'G'],
      ['Y', 'B', 'R', 'O'],
      ['Y', 'B', 'R', 'P'],
      ['Y', 'B', 'P', 'G'],
      ['Y', 'B', 'P', 'O'],
      ['Y', 'B', 'P', 'R'],
      ['Y', 'G', 'B', 'O'],
      ['Y', 'G', 'B', 'R'],
      ['Y', 'G', 'B', 'P'],
      ['Y', 'G', 'O', 'B'],
      ['Y', 'G', 'O', 'R'],
      ['Y', 'G', 'O', 'P'],
      ['Y', 'G', 'R', 'B'],
      ['Y', 'G', 'R', 'O'],
      ['Y', 'G', 'R', 'P'],
      ['Y', 'G', 'P', 'B'],
      ['Y', 'G', 'P', 'O'],
      ['Y', 'G', 'P', 'R'],
      ['Y', 'O', 'B', 'G'],
      ['Y', 'O', 'B', 'R'],
      ['Y', 'O', 'B', 'P'],
      ['Y', 'O', 'G', 'B'],
      ['Y', 'O', 'G', 'R'],
      ['Y', 'O', 'G', 'P'],
      ['Y', 'O', 'R', 'B'],
      ['Y', 'O', 'R', 'G'],
      ['Y', 'O', 'R', 'P'],
      ['Y', 'O', 'P', 'B'],
      ['Y', 'O', 'P', 'G'],
      ['Y', 'O', 'P', 'R'],
      ['Y', 'R', 'B', 'G'],
      ['Y', 'R', 'B', 'O'],
      ['Y', 'R', 'B', 'P'],
      ['Y', 'R', 'G', 'B'],
      ['Y', 'R', 'G', 'O'],
      ['Y', 'R', 'G', 'P'],
      ['Y', 'R', 'O', 'B'],
      ['Y', 'R', 'O', 'G'],
      ['Y', 'R', 'O', 'P'],
      ['Y', 'R', 'P', 'B'],
      ['Y', 'R', 'P', 'G'],
      ['Y', 'R', 'P', 'O'],
      ['Y', 'P', 'B', 'G'],
      ['Y', 'P', 'B', 'O'],
      ['Y', 'P', 'B', 'R'],
      ['Y', 'P', 'G', 'B'],
      ['Y', 'P', 'G', 'O'],
      ['Y', 'P', 'G', 'R'],
      ['Y', 'P', 'O', 'B'],
      ['Y', 'P', 'O', 'G'],
      ['Y', 'P', 'O', 'R'],
      ['Y', 'P', 'R', 'B'],
      ['Y', 'P', 'R', 'G'],
      ['Y', 'P', 'R', 'O'],
      ['P', 'B', 'G', 'O'],
      ['P', 'B', 'G', 'R'],
      ['P', 'B', 'G', 'Y'],
      ['P', 'B', 'O', 'G'],
      ['P', 'B', 'O', 'R'],
      ['P', 'B', 'O', 'Y'],
      ['P', 'B', 'R', 'G'],
      ['P', 'B', 'R', 'O'],
      ['P', 'B', 'R', 'Y'],
      ['P', 'B', 'Y', 'G'],
      ['P', 'B', 'Y', 'O'],
      ['P', 'B', 'Y', 'R'],
      ['P', 'G', 'B', 'O'],
      ['P', 'G', 'B', 'R'],
      ['P', 'G', 'B', 'Y'],
      ['P', 'G', 'O', 'B'],
      ['P', 'G', 'O', 'R'],
      ['P', 'G', 'O', 'Y'],
      ['P', 'G', 'R', 'B'],
      ['P', 'G', 'R', 'O'],
      ['P', 'G', 'R', 'Y'],
      ['P', 'G', 'Y', 'B'],
      ['P', 'G', 'Y', 'O'],
      ['P', 'G', 'Y', 'R'],
      ['P', 'O', 'B', 'G'],
      ['P', 'O', 'B', 'R'],
      ['P', 'O', 'B', 'Y'],
      ['P', 'O', 'G', 'B'],
      ['P', 'O', 'G', 'R'],
      ['P', 'O', 'G', 'Y'],
      ['P', 'O', 'R', 'B'],
      ['P', 'O', 'R', 'G'],
      ['P', 'O', 'R', 'Y'],
      ['P', 'O', 'Y', 'B'],
      ['P', 'O', 'Y', 'G'],
      ['P', 'O', 'Y', 'R'],
      ['P', 'R', 'B', 'G'],
      ['P', 'R', 'B', 'O'],
      ['P', 'R', 'B', 'Y'],
      ['P', 'R', 'G', 'B'],
      ['P', 'R', 'G', 'O'],
      ['P', 'R', 'G', 'Y'],
      ['P', 'R', 'O', 'B'],
      ['P', 'R', 'O', 'G'],
      ['P', 'R', 'O', 'Y'],
      ['P', 'R', 'Y', 'B'],
      ['P', 'R', 'Y', 'G'],
      ['P', 'R', 'Y', 'O'],
      ['P', 'Y', 'B', 'G'],
      ['P', 'Y', 'B', 'O'],
      ['P', 'Y', 'B', 'R'],
      ['P', 'Y', 'G', 'B'],
      ['P', 'Y', 'G', 'O'],
      ['P', 'Y', 'G', 'R'],
      ['P', 'Y', 'O', 'B'],
      ['P', 'Y', 'O', 'G'],
      ['P', 'Y', 'O', 'R'],
      ['P', 'Y', 'R', 'B'],
      ['P', 'Y', 'R', 'G'],
      ['P', 'Y', 'R', 'O']] : List Code),
    (loopRun (honest s) 7 none S0 []).2.Nodup :=
  List.forall_mem_cons.mpr ⟨nodup_of_eq rs90 (by decide),
  List.forall_mem_cons.mpr ⟨nodup_of_eq rs91 (by decide),
  List.forall_mem_cons.mpr ⟨nodup_of_eq rs92 (by decide),
  List.forall_mem_cons.mpr ⟨nodup_of_eq rs93 (by decide),
  List.forall_mem_cons.mpr ⟨nodup_of_eq rs94 (by decide),
  List.forall_mem_cons.mpr ⟨nodup_of_eq rs95 (by decide),
  List.forall_mem_cons.mpr ⟨nodup_of_eq rs96 (by decide),
  List.forall_mem_cons.mpr ⟨nodup_of_eq rs97 (by decide),
  List.forall_mem_cons.mpr ⟨nodup_of_eq rs98 (by decide),
  List.forall_mem_cons.mpr ⟨nodup_of_eq rs99 (by decide),
  ntl10⟩⟩⟩⟩⟩⟩⟩⟩⟩⟩


lemma ntl8 : ∀ s ∈ ([['G', 'O', 'Y', 'P'],
      ['G', 'O', 'P', 'B'],
      ['G', 'O', 'P', 'R'],
      ['G', 'O', 'P', 'Y'],
      ['G', 'R', 'B', 'O'],
      ['G', 'R', 'B', 'Y'],
      ['G', 'R', 'B', 'P'],
      ['G', 'R', 'O', 'B'],
      ['G', 'R', 'O', 'Y'],
      ['G', 'R', 'O', 'P'],
      ['G', 'R', 'Y', 'B'],
      ['G', 'R', 'Y', 'O'],
      ['G', 'R', 'Y', 'P'],
      ['G', 'R', 'P', 'B'],
      ['G', 'R', 'P', 'O'],
      ['G', 'R', 'P', 'Y'],
      ['G', 'Y', 'B', 'O'],
      ['G', 'Y', 'B', 'R'],
      ['G', 'Y', 'B', 'P'],
      ['G', 'Y', 'O', 'B'],
      ['G', 'Y', 'O', 'R'],
      ['G', 'Y', 'O', 'P'],
      ['G', 'Y', 'R', 'B'],
      ['G', 'Y', 'R', 'O'],
      ['G', 'Y', 'R', 'P'],
      ['G', 'Y', 'P', 'B'],
      ['G', 'Y', 'P', 'O'],
      ['G', 'Y', 'P', 'R'],
      ['G', 'P', 'B', 'O'],
      ['G', 'P', 'B', 'R'],
      ['G', 'P', 'B', 'Y'],
      ['G', 'P', 'O', 'B'],
      ['G', 'P', 'O', 'R'],
      ['G', 'P', 'O', 'Y'],
      ['G', 'P', 'R', 'B'],
      ['G', 'P', 'R', 'O'],
      ['G', 'P', 'R', 'Y'],
      ['G', 'P', 'Y', 'B'],
      ['G', 'P', 'Y', 'O'],
      ['G', 'P', 'Y', 'R'],
      ['O', 'B', 'G', 'R'],
      ['O', 'B', 'G', 'Y'],
      ['O', 'B', 'G', 'P'],
      ['O', 'B', 'R', 'G'],
      ['O', 'B', 'R', 'Y'],
      ['O', 'B', 'R', 'P'],
      ['O', 'B', 'Y', 'G'],
      ['O', 'B', 'Y', 'R'],
      ['O', 'B', 'Y', 'P'],
      ['O', 'B', 'P', 'G'],
      ['O', 'B', 'P', 'R'],
      ['O', 'B', 'P', 'Y'],
      ['O', 'G', 'B', 'R'],
      ['O', 'G', 'B', 'Y'],
      ['O', 'G', 'B', 'P'],
      ['O', 'G', 'R', 'B'],
      ['O', 'G', 'R', 'Y'],
      ['O', 'G', 'R', 'P'],
      ['O', 'G', 'Y', 'B'],
      ['O', 'G', 'Y', 'R'],
      ['O', 'G', 'Y', 'P'],
      ['O', 'G', 'P', 'B'],
      ['O', 'G', 'P', 'R'],
      ['O', 'G', 'P', 'Y'],
      ['O', 'R', 'B', 'G'],
      ['O', 'R', 'B', 'Y'],
      ['O', 'R', 'B', 'P'],
      ['O', 'R', 'G', 'B'],
      ['O', 'R', 'G', 'Y'],
      ['O', 'R', 'G', 'P'],
      ['O', 'R', 'Y', 'B'],
      ['O', 'R', 'Y', 'G'],
      ['O', 'R', 'Y', 'P'],
      ['O', 'R', 'P', 'B'],
      ['O', 'R', 'P', 'G'],
      ['O', 'R', 'P', 'Y'],
      ['O', 'Y', 'B', 'G'],
      ['O', 'Y', 'B', 'R'],
      ['O', 'Y', 'B', 'P'],
      ['O', 'Y', 'G', 'B'],
      ['O', 'Y', 'G', 'R'],
      ['O', 'Y', 'G', 'P'],
      ['O', 'Y', 'R', 'B'],
      ['O', 'Y', 'R', 'G'],
      ['O', 'Y', 'R', 'P'],
      ['O', 'Y', 'P', 'B'],
      ['O', 'Y', 'P', 'G'],
      ['O', 'Y', 'P', 'R'],
      ['O', 'P', 'B', 'G'],
      ['O', 'P', 'B', 'R'],
      ['O', 'P', 'B', 'Y'],
      ['O', 'P', 'G', 'B'],
      ['O', 'P', 'G', 'R'],
      ['O', 'P', 'G', 'Y'],
      ['O', 'P', 'R', 'B'],
      ['O', 'P', 'R', 'G'],
      ['O', 'P', 'R', 'Y'],
      ['O', 'P', 'Y', 'B'],
      ['O', 'P', 'Y', 'G'],
      ['O', 'P', 'Y', 'R'],
      ['R', 'B', 'G', 'O'],
      ['R', 'B', 'G', 'Y'],
      ['R', 'B', 'G', 'P'],
      ['R', 'B', 'O', 'G'],
      ['R', 'B', 'O', 'Y'],
      ['R', 'B', 'O', 'P'],
      ['R', 'B', 'Y', 'G'],
      ['R', 'B', 'Y', 'O'],
      ['R', 'B', 'Y', 'P'],
      ['R', 'B', 'P', 'G'],
      ['R', 'B', 'P', 'O'],
      ['R', 'B', 'P', 'Y'],
      ['R', 'G', 'B', 'O'],
      ['R', 'G', 'B', 'Y'],
      ['R', 'G', 'B', 'P'],
      ['R', 'G', 'O', 'B'],
      ['R', 'G', 'O', 'Y'],
      ['R', 'G', 'O', 'P'],
      ['R', 'G', 'Y', 'B'],
      ['R', 'G', 'Y', 'O'],
      ['R', 'G', 'Y', 'P'],
      ['R', 'G', 'P', 'B'],
      ['R', 'G', 'P', 'O'],
      ['R', 'G', 'P', 'Y'],
      ['R', 'O', 'B', 'G'],
      ['R', 'O', 'B', 'Y'],
      ['R', 'O', 'B', 'P'],
      ['R', 'O', 'G', 'B'],
      ['R', 'O', 'G', 'Y'],
      ['R', 'O', 'G', 'P'],
      ['R', 'O', 'Y', 'B'],
      ['R', 'O', 'Y', 'G'],
      ['R', 'O', 'Y', 'P'],
      ['R', 'O', 'P', 'B'],
      ['R', 'O', 'P', 'G'],
      ['R', 'O', 'P', 'Y'],
      ['R', 'Y', 'B', 'G'],
      ['R', 'Y', 'B', 'O'],
      ['R', 'Y', 'B', 'P'],
      ['R', 'Y', 'G', 'B'],
      ['R', 'Y', 'G', 'O'],
      ['R', 'Y', 'G', 'P'],
      ['R', 'Y', 'O', 'B'],
      ['R', 'Y', 'O', 'G'],
      ['R', 'Y', 'O', 'P'],
      ['R', 'Y', 'P', 'B'],
      ['R', 'Y', 'P', 'G'],
      ['R', 'Y', 'P', 'O'],
      ['R', 'P', 'B', 'G'],
      ['R', 'P', 'B', 'O'],
      ['R', 'P', 'B', 'Y'],
      ['R', 'P', 'G', 'B'],
      ['R', 'P', 'G', 'O'],
      ['R', 'P', 'G', 'Y'],
      ['R', 'P', 'O', 'B'],
      ['R', 'P', 'O', 'G'],
      ['R', 'P', 'O', 'Y'],
      ['R', 'P', 'Y', 'B'],
      ['R', 'P', 'Y', 'G'],
      ['R', 'P', 'Y', 'O'],
      ['Y', 'B', 'G', 'O'],
      ['Y', 'B', 'G', 'R'],
      ['Y', 'B', 'G', 'P'],
      ['Y', 'B', 'O', 'G'],
      ['Y', 'B', 'O', 'R'],
      ['Y', 'B', 'O', 'P'],
      ['Y', 'B', 'R', 'G'],
      ['Y', 'B', 'R', 'O'],
      ['Y', 'B', 'R', 'P'],
      ['Y', 'B', 'P', 'G'],
      ['Y', 'B', 'P', 'O'],
      ['Y', 'B', 'P', 'R'],
      ['Y', 'G', 'B', 'O'],
      ['Y', 'G', 'B', 'R'],
      ['Y', 'G', 'B', 'P'],
      ['Y', 'G', 'O', 'B'],
      ['Y', 'G', 'O', 'R'],
      ['Y', 'G', 'O', 'P'],
      ['Y', 'G', 'R', 'B'],
      ['Y', 'G', 'R', 'O'],
      ['Y', 'G', 'R', 'P'],
      ['Y', 'G', 'P', 'B'],
      ['Y', 'G', 'P', 'O'],
      ['Y', 'G', 'P', 'R'],
      ['Y', 'O', 'B', 'G'],
      ['Y', 'O', 'B', 'R'],
      ['Y', 'O', 'B', 'P'],
      ['Y', 'O', 'G', 'B'],
      ['Y', 'O', 'G', 'R'],
      ['Y', 'O', 'G', 'P'],
      ['Y', 'O', 'R', 'B'],
      ['Y', 'O', 'R', 'G'],
      ['Y', 'O', 'R', 'P'],
      ['Y', 'O', 'P', 'B'],
      ['Y', 'O', 'P', 'G'],
      ['Y', 'O', 'P', 'R'],
      ['Y', 'R', 'B', 'G'],
      ['Y', 'R', 'B', 'O'],
      ['Y', 'R', 'B', 'P'],
      ['Y', 'R', 'G', 'B'],
      ['Y', 'R', 'G', 'O'],
      ['Y', 'R', 'G', 'P'],
      ['Y', 'R', 'O', 'B'],
      ['Y', 'R', 'O', 'G'],
      ['Y', 'R', 'O', 'P'],
      ['Y', 'R', 'P', 'B'],
      ['Y', 'R', 'P', 'G'],
      ['Y', 'R', 'P', 'O'],
      ['Y', 'P', 'B', 'G'],
      ['Y', 'P', 'B', 'O'],
      ['Y', 'P', 'B', 'R'],
      ['Y', 'P', 'G', 'B'],
      ['Y', 'P', 'G', 'O'],
      ['Y', 'P', 'G', 'R'],
      ['Y', 'P', 'O', 'B'],
      ['Y', 'P', 'O', 'G'],
      ['Y', 'P', 'O', 'R'],
      ['Y', 'P', 'R', 'B'],
      ['Y', 'P', 'R', 'G'],
      ['Y', 'P', 'R', 'O'],
      ['P', 'B', 'G', 'O'],
      ['P', 'B', 'G', 'R'],
      ['P', 'B', 'G', 'Y'],
      ['P', 'B', 'O', 'G'],
      ['P', 'B', 'O', 'R'],
      ['P', 'B', 'O', 'Y'],
      ['P', 'B', 'R', 'G'],
      ['P', 'B', 'R', 'O'],
      ['P', 'B', 'R', 'Y'],
      ['P', 'B', 'Y', 'G'],
      ['P', 'B', 'Y', 'O'],
      ['P', 'B', 'Y', 'R'],
      ['P', 'G', 'B', 'O'],
      ['P', 'G', 'B', 'R'],
      ['P', 'G', 'B', 'Y'],
      ['P', 'G', 'O', 'B'],
      ['P', 'G', 'O', 'R'],
      ['P', 'G', 'O', 'Y'],
      ['P', 'G', 'R', 'B'],
      ['P', 'G', 'R', 'O'],
      ['P', 'G', 'R', 'Y'],
      ['P', 'G', 'Y', 'B'],
      ['P', 'G', 'Y', 'O'],
      ['P', 'G', 'Y', 'R'],
      ['P', 'O', 'B', 'G'],
      ['P', 'O', 'B', 'R'],
      ['P', 'O', 'B', 'Y'],
      ['P', 'O', 'G', 'B'],
      ['P', 'O', 'G', 'R'],
      ['P', 'O', 'G', 'Y'],
      ['P', 'O', 'R', 'B'],
      ['P', 'O', 'R', 'G'],
      ['P', 'O', 'R', 'Y'],
      ['P', 'O', 'Y', 'B'],
      ['P', 'O', 'Y', 'G'],
      ['P', 'O', 'Y', 'R'],
      ['P', 'R', 'B', 'G'],
      ['P', 'R', 'B', 'O'],
      ['P', 'R', 'B', 'Y'],
      ['P', 'R', 'G', 'B'],
      ['P', 'R', 'G', 'O'],
      ['P', 'R', 'G', 'Y'],
      ['P', 'R', 'O', 'B'],
      ['P', 'R', 'O', 'G'],
      ['P', 'R', 'O', 'Y'],
      ['P', 'R', 'Y', 'B'],
      ['P', 'R', 'Y', 'G'],
      ['P', 'R', 'Y', 'O'],
      ['P', 'Y', 'B', 'G'],
      ['P', 'Y', 'B', 'O'],
      ['P', 'Y', 'B', 'R'],
      ['P', 'Y', 'G', 'B'],
      ['P', 'Y', 'G', 'O'],
      ['P', 'Y', 'G', 'R'],
      ['P', 'Y', 'O', 'B'],
      ['P', 'Y', 'O', 'G'],
      ['P', 'Y', 'O', 'R'],
      ['P', 'Y', 'R', 'B'],
      ['P', 'Y', 'R', 'G'],
      ['P', 'Y', 'R', 'O']] : List Code),
    (loopRun (honest s) 7 none S0 []).2.Nodup :=
  List.forall_mem_cons.mpr ⟨nodup_of_eq rs80 (by decide),
  List.forall_mem_cons.mpr ⟨nodup_of_eq rs81 (by decide),
  List.forall_mem_cons.mpr ⟨nodup_of_eq rs82 (by decide),
  List.forall_mem_cons.mpr ⟨nodup_of_eq rs83 (by decide),
  List.forall_mem_cons.mpr ⟨nodup_of_eq rs84 (by decide),
  List.forall_mem_cons.mpr ⟨nodup_of_eq rs85 (by decide),
  List.forall_mem_cons.mpr ⟨nodup_of_eq rs86 (by decide),
  List.forall_mem_cons.mpr ⟨nodup_of_eq rs87 (by decide),
  List.forall_mem_cons.mpr ⟨nodup_of_eq rs88 (by decide),
  List.forall_mem_cons.mpr ⟨nodup_of_eq rs89 (by decide),
  ntl9⟩⟩⟩⟩⟩⟩⟩⟩⟩⟩


lemma ntl7 : ∀ s ∈ ([['G', 'B', 'P', 'R'],
      ['G', 'B', 'P', 'Y'],
      ['G', 'O', 'B', 'R'],
      ['G', 'O', 'B', 'Y'],
      ['G', 'O', 'B', 'P'],
      ['G', 'O', 'R', 'B'],
      ['G', 'O', 'R', 'Y'],
      ['G', 'O', 'R', 'P'],
      ['G', 'O', 'Y', 'B'],
      ['G', 'O', 'Y', 'R'],
      ['G', 'O', 'Y', 'P'],
      ['G', 'O', 'P', 'B'],
      ['G', 'O', 'P', 'R'],
      ['G', 'O', 'P', 'Y'],
      ['G', 'R', 'B', 'O'],
      ['G', 'R', 'B', 'Y'],
      ['G', 'R', 'B', 'P'],
      ['G', 'R', 'O', 'B'],
      ['G', 'R', 'O', 'Y'],
      ['G', 'R', 'O', 'P'],
      ['G', 'R', 'Y', 'B'],
      ['G', 'R', 'Y', 'O'],
      ['G', 'R', 'Y', 'P'],
      ['G', 'R', 'P', 'B'],
      ['G', 'R', 'P', 'O'],
      ['G', 'R', 'P', 'Y'],
      ['G', 'Y', 'B', 'O'],
      ['G', 'Y', 'B', 'R'],
      ['G', 'Y', 'B', 'P'],
      ['G', 'Y', 'O', 'B'],
      ['G', 'Y', 'O', 'R'],
      ['G', 'Y', 'O', 'P'],
      ['G', 'Y', 'R', 'B'],
      ['G', 'Y', 'R', 'O'],
      ['G', 'Y', 'R', 'P'],
      ['G', 'Y', 'P', 'B'],
      ['G', 'Y', 'P', 'O'],
      ['G', 'Y', 'P', 'R'],
      ['G', 'P', 'B', 'O'],
      ['G', 'P', 'B', 'R'],
      ['G', 'P', 'B', 'Y'],
      ['G', 'P', 'O', 'B'],
      ['G', 'P', 'O', 'R'],
      ['G', 'P', 'O', 'Y'],
      ['G', 'P', 'R', 'B'],
      ['G', 'P', 'R', 'O'],
      ['G', 'P', 'R', 'Y'],
      ['G', 'P', 'Y', 'B'],
      ['G', 'P', 'Y', 'O'],
      ['G', 'P', 'Y', 'R'],
      ['O', 'B', 'G', 'R'],
      ['O', 'B', 'G', 'Y'],
      ['O', 'B', 'G', 'P'],
      ['O', 'B', 'R', 'G'],
      ['O', 'B', 'R', 'Y'],
      ['O', 'B', 'R', 'P'],
      ['O', 'B', 'Y', 'G'],
      ['O', 'B', 'Y', 'R'],
      ['O', 'B', 'Y', 'P'],
      ['O', 'B', 'P', 'G'],
      ['O', 'B', 'P', 'R'],
      ['O', 'B', 'P', 'Y'],
      ['O', 'G', 'B', 'R'],
      ['O', 'G', 'B', 'Y'],
      ['O', 'G', 'B', 'P'],
      ['O', 'G', 'R', 'B'],
      ['O', 'G', 'R', 'Y'],
      ['O', 'G', 'R', 'P'],
      ['O', 'G', 'Y', 'B'],
      ['O', 'G', 'Y', 'R'],
      ['O', 'G', 'Y', 'P'],
      ['O', 'G', 'P', 'B'],
      ['O', 'G', 'P', 'R'],
      ['O', 'G', 'P', 'Y'],
      ['O', 'R', 'B', 'G'],
      ['O', 'R', 'B', 'Y'],
      ['O', 'R', 'B', 'P'],
      ['O', 'R', 'G', 'B'],
      ['O', 'R', 'G', 'Y'],
      ['O', 'R', 'G', 'P'],
      ['O', 'R', 'Y', 'B'],
      ['O', 'R', 'Y', 'G'],
      ['O', 'R', 'Y', 'P'],
      ['O', 'R', 'P', 'B'],
      ['O', 'R', 'P', 'G'],
      ['O', 'R', 'P', 'Y'],
      ['O', 'Y', 'B', 'G'],
      ['O', 'Y', 'B', 'R'],
      ['O', 'Y', 'B', 'P'],
      ['O', 'Y', 'G', 'B'],
      ['O', 'Y', 'G', 'R'],
      ['O', 'Y', 'G', 'P'],
      ['O', 'Y', 'R', 'B'],
      ['O', 'Y', 'R', 'G'],
      ['O', 'Y', 'R', 'P'],
      ['O', 'Y', 'P', 'B'],
      ['O', 'Y', 'P', 'G'],
      ['O', 'Y', 'P', 'R'],
      ['O', 'P', 'B', 'G'],
      ['O', 'P', 'B', 'R'],
      ['O', 'P', 'B', 'Y'],
      ['O', 'P', 'G', 'B'],
      ['O', 'P', 'G', 'R'],
      ['O', 'P', 'G', 'Y'],
      ['O', 'P', 'R', 'B'],
      ['O', 'P', 'R', 'G'],
      ['O', 'P', 'R', 'Y'],
      ['O', 'P', 'Y', 'B'],
      ['O', 'P', 'Y', 'G'],
      ['O', 'P', 'Y', 'R'],
      ['R', 'B', 'G', 'O'],
      ['R', 'B', 'G', 'Y'],
      ['R', 'B', 'G', 'P'],
      ['R', 'B', 'O', 'G'],
      ['R', 'B', 'O', 'Y'],
      ['R', 'B', 'O', 'P'],
      ['R', 'B', 'Y', 'G'],
      ['R', 'B', 'Y', 'O'],
      ['R', 'B', 'Y', 'P'],
      ['R', 'B', 'P', 'G'],
      ['R', 'B', 'P', 'O'],
      ['R', 'B', 'P', 'Y'],
      ['R', 'G', 'B', 'O'],
      ['R', 'G', 'B', 'Y'],
      ['R', 'G', 'B', 'P'],
      ['R', 'G', 'O', 'B'],
      ['R', 'G', 'O', 'Y'],
      ['R', 'G', 'O', 'P'],
      ['R', 'G', 'Y', 'B'],
      ['R', 'G', 'Y', 'O'],
      ['R', 'G', 'Y', 'P'],
      ['R', 'G', 'P', 'B'],
      ['R', 'G', 'P', 'O'],
      ['R', 'G', 'P', 'Y'],
      ['R', 'O', 'B', 'G'],
      ['R', 'O', 'B', 'Y'],
      ['R', 'O', 'B', 'P'],
      ['R', 'O', 'G', 'B'],
      ['R', 'O', 'G', 'Y'],
      ['R', 'O', 'G', 'P'],
      ['R', 'O', 'Y', 'B'],
      ['R', 'O', 'Y', 'G'],
      ['R', 'O', 'Y', 'P'],
      ['R', 'O', 'P', 'B'],
      ['R', 'O', 'P', 'G'],
      ['R', 'O', 'P', 'Y'],
      ['R', 'Y', 'B', 'G'],
      ['R', 'Y', 'B', 'O'],
      ['R', 'Y', 'B', 'P'],
      ['R', 'Y', 'G', 'B'],
      ['R', 'Y', 'G', 'O'],
      ['R', 'Y', 'G', 'P'],
      ['R', 'Y', 'O', 'B'],
      ['R', 'Y', 'O', 'G'],
      ['R', 'Y', 'O', 'P'],
      ['R', 'Y', 'P', 'B'],
      ['R', 'Y', 'P', 'G'],
      ['R', 'Y', 'P', 'O'],
      ['R', 'P', 'B', 'G'],
      ['R', 'P', 'B', 'O'],
      ['R', 'P', 'B', 'Y'],
      ['R', 'P', 'G', 'B'],
      ['R', 'P', 'G', 'O'],
      ['R', 'P', 'G', 'Y'],
      ['R', 'P', 'O', 'B'],
      ['R', 'P', 'O', 'G'],
      ['R', 'P', 'O', 'Y'],
      ['R', 'P', 'Y', 'B'],
      ['R', 'P', 'Y', 'G'],
      ['R', 'P', 'Y', 'O'],
      ['Y', 'B', 'G', 'O'],
      ['Y', 'B', 'G', 'R'],
      ['Y', 'B', 'G', 'P'],
      ['Y', 'B', 'O', 'G'],
      ['Y', 'B', 'O', 'R'],
      ['Y', 'B', 'O', 'P'],
      ['Y', 'B', 'R', 'G'],
      ['Y', 'B', 'R', 'O'],
      ['Y', 'B', 'R', 'P'],
      ['Y', 'B', 'P', 'G'],
      ['Y', 'B', 'P', 'O'],
      ['Y', 'B', 'P', 'R'],
      ['Y', 'G', 'B', 'O'],
      ['Y', 'G', 'B', 'R'],
      ['Y', 'G', 'B', 'P'],
      ['Y', 'G', 'O', 'B'],
      ['Y', 'G', 'O', 'R'],
      ['Y', 'G', 'O', 'P'],
      ['Y', 'G', 'R', 'B'],
      ['Y', 'G', 'R', 'O'],
      ['Y', 'G', 'R', 'P'],
      ['Y', 'G', 'P', 'B'],
      ['Y', 'G', 'P', 'O'],
      ['Y', 'G', 'P', 'R'],
      ['Y', 'O', 'B', 'G'],
      ['Y', 'O', 'B', 'R'],
      ['Y', 'O', 'B', 'P'],
      ['Y', 'O', 'G', 'B'],
      ['Y', 'O', 'G', 'R'],
      ['Y', 'O', 'G', 'P'],
      ['Y', 'O', 'R', 'B'],
      ['Y', 'O', 'R', 'G'],
      ['Y', 'O', 'R', 'P'],
      ['Y', 'O', 'P', 'B'],
      ['Y', 'O', 'P', 'G'],
      ['Y', 'O', 'P', 'R'],
      ['Y', 'R', 'B', 'G'],
      ['Y', 'R', 'B', 'O'],
      ['Y', 'R', 'B', 'P'],
      ['Y', 'R', 'G', 'B'],
      ['Y', 'R', 'G', 'O'],
      ['Y', 'R', 'G', 'P'],
      ['Y', 'R', 'O', 'B'],
      ['Y', 'R', 'O', 'G'],
      ['Y', 'R', 'O', 'P'],
      ['Y', 'R', 'P', 'B'],
      ['Y', 'R', 'P', 'G'],
      ['Y', 'R', 'P', 'O'],
      ['Y', 'P', 'B', 'G'],
      ['Y', 'P', 'B', 'O'],
      ['Y', 'P', 'B', 'R'],
      ['Y', 'P', 'G', 'B'],
      ['Y', 'P', 'G', 'O'],
      ['Y', 'P', 'G', 'R'],
      ['Y', 'P', 'O', 'B'],
      ['Y', 'P', 'O', 'G'],
      ['Y', 'P', 'O', 'R'],
      ['Y', 'P', 'R', 'B'],
      ['Y', 'P', 'R', 'G'],
      ['Y', 'P', 'R', 'O'],
      ['P', 'B', 'G', 'O'],
      ['P', 'B', 'G', 'R'],
      ['P', 'B', 'G', 'Y'],
      ['P', 'B', 'O', 'G'],
      ['P', 'B', 'O', 'R'],
      ['P', 'B', 'O', 'Y'],
      ['P', 'B', 'R', 'G'],
      ['P', 'B', 'R', 'O'],
      ['P', 'B', 'R', 'Y'],
      ['P', 'B', 'Y', 'G'],
      ['P', 'B', 'Y', 'O'],
      ['P', 'B', 'Y', 'R'],
      ['P', 'G', 'B', 'O'],
      ['P', 'G', 'B', 'R'],
      ['P', 'G', 'B', 'Y'],
      ['P', 'G', 'O', 'B'],
      ['P', 'G', 'O', 'R'],
      ['P', 'G', 'O', 'Y'],
      ['P', 'G', 'R', 'B'],
      ['P', 'G', 'R', 'O'],
      ['P', 'G', 'R', 'Y'],
      ['P', 'G', 'Y', 'B'],
      ['P', 'G', 'Y', 'O'],
      ['P', 'G', 'Y', 'R'],
      ['P', 'O', 'B', 'G'],
      ['P', 'O', 'B', 'R'],
      ['P', 'O', 'B', 'Y'],
      ['P', 'O', 'G', 'B'],
      ['P', 'O', 'G', 'R'],
      ['P', 'O', 'G', 'Y'],
      ['P', 'O', 'R', 'B'],
      ['P', 'O', 'R', 'G'],
      ['P', 'O', 'R', 'Y'],
      ['P', 'O', 'Y', 'B'],
      ['P', 'O', 'Y', 'G'],
      ['P', 'O', 'Y', 'R'],
      ['P', 'R', 'B', 'G'],
      ['P', 'R', 'B', 'O'],
      ['P', 'R', 'B', 'Y'],
      ['P', 'R', 'G', 'B'],
      ['P', 'R', 'G', 'O'],
      ['P', 'R', 'G', 'Y'],
      ['P', 'R', 'O', 'B'],
      ['P', 'R', 'O', 'G'],
      ['P', 'R', 'O', 'Y'],
      ['P', 'R', 'Y', 'B'],
      ['P', 'R', 'Y', 'G'],
      ['P', 'R', 'Y', 'O'],
      ['P', 'Y', 'B', 'G'],
      ['P', 'Y', 'B', 'O'],
      ['P', 'Y', 'B', 'R'],
      ['P', 'Y', 'G', 'B'],
      ['P', 'Y', 'G', 'O'],
      ['P', 'Y', 'G', 'R'],
      ['P', 'Y', 'O', 'B'],
      ['P', 'Y', 'O', 'G'],
      ['P', 'Y', 'O', 'R'],
      ['P', 'Y', 'R', 'B'],
      ['P', 'Y', 'R', 'G'],
      ['P', 'Y', 'R', 'O']] : List Code),
    (loopRun (honest s) 7 none S0 []).2.Nodup :=
  List.forall_mem_cons.mpr ⟨nodup_of_eq rs70 (by decide),
  List.forall_mem_cons.mpr ⟨nodup_of_eq rs71 (by decide),
  List.forall_mem_cons.mpr ⟨nodup_of_eq rs72 (by decide),
  List.forall_mem_cons.mpr ⟨nodup_of_eq rs73 (by decide),
  List.forall_mem_cons.mpr ⟨nodup_of_eq rs74 (by decide),
  List.forall_mem_cons.mpr ⟨nodup_of_eq rs75 (by decide),
  List.forall_mem_cons.mpr ⟨nodup_of_eq rs76 (by decide),
  List.forall_mem_cons.mpr ⟨nodup_of_eq rs77 (by decide),
  List.forall_mem_cons.mpr ⟨nodup_of_eq rs78 (by decide),
  List.forall_mem_cons.mpr ⟨nodup_of_eq rs79 (by decide),
  ntl8⟩⟩⟩⟩⟩⟩⟩⟩⟩⟩


lemma ntl6 : ∀ s ∈ ([['G', 'B', 'O', 'R'],
      ['G', 'B', 'O', 'Y'],
      ['G', 'B', 'O', 'P'],
      ['G', 'B', 'R', 'O'],
      ['G', 'B', 'R', 'Y'],
      ['G', 'B', 'R', 'P'],
      ['G', 'B', 'Y', 'O'],
      ['G', 'B', 'Y', 'R'],
      ['G', 'B', 'Y', 'P'],
      ['G', 'B', 'P', 'O'],
      ['G', 'B', 'P', 'R'],
      ['G', 'B', 'P', 'Y'],
      ['G', 'O', 'B', 'R'],
      ['G', 'O', 'B', 'Y'],
      ['G', 'O', 'B', 'P'],
      ['G', 'O', 'R', 'B'],
      ['G', 'O', 'R', 'Y'],
      ['G', 'O', 'R', 'P'],
      ['G', 'O', 'Y', 'B'],
      ['G', 'O', 'Y', 'R'],
      ['G', 'O', 'Y', 'P'],
      ['G', 'O', 'P', 'B'],
      ['G', 'O', 'P', 'R'],
      ['G', 'O', 'P', 'Y'],
      ['G', 'R', 'B', 'O'],
      ['G', 'R', 'B', 'Y'],
      ['G', 'R', 'B', 'P'],
      ['G', 'R', 'O', 'B'],
      ['G', 'R', 'O', 'Y'],
      ['G', 'R', 'O', 'P'],
      ['G', 'R', 'Y', 'B'],
      ['G', 'R', 'Y', 'O'],
      ['G', 'R', 'Y', 'P'],
      ['G', 'R', 'P', 'B'],
      ['G', 'R', 'P', 'O'],
      ['G', 'R', 'P', 'Y'],
      ['G', 'Y', 'B', 'O'],
      ['G', 'Y', 'B', 'R'],
      ['G', 'Y', 'B', 'P'],
      ['G', 'Y', 'O', 'B'],
      ['G', 'Y', 'O', 'R'],
      ['G', 'Y', 'O', 'P'],
      ['G', 'Y', 'R', 'B'],
      ['G', 'Y', 'R', 'O'],
      ['G', 'Y', 'R', 'P'],
      ['G', 'Y', 'P', 'B'],
      ['G', 'Y', 'P', 'O'],
      ['G', 'Y', 'P', 'R'],
      ['G', 'P', 'B', 'O'],
      ['G', 'P', 'B', 'R'],
      ['G', 'P', 'B', 'Y'],
      ['G', 'P', 'O', 'B'],
      ['G', 'P', 'O', 'R'],
      ['G', 'P', 'O', 'Y'],
      ['G', 'P', 'R', 'B'],
      ['G', 'P', 'R', 'O'],
      ['G', 'P', 'R', 'Y'],
      ['G', 'P', 'Y', 'B'],
      ['G', 'P', 'Y', 'O'],
      ['G', 'P', 'Y', 'R'],
      ['O', 'B', 'G', 'R'],
      ['O', 'B', 'G', 'Y'],
      ['O', 'B', 'G', 'P'],
      ['O', 'B', 'R', 'G'],
      ['O', 'B', 'R', 'Y'],
      ['O', 'B', 'R', 'P'],
      ['O', 'B', 'Y', 'G'],
      ['O', 'B', 'Y', 'R'],
      ['O', 'B', 'Y', 'P'],
      ['O', 'B', 'P', 'G'],
      ['O', 'B', 'P', 'R'],
      ['O', 'B', 'P', 'Y'],
      ['O', 'G', 'B', 'R'],
      ['O', 'G', 'B', 'Y'],
      ['O', 'G', 'B', 'P'],
      ['O', 'G', 'R', 'B'],
      ['O', 'G', 'R', 'Y'],
      ['O', 'G', 'R', 'P'],
      ['O', 'G', 'Y', 'B'],
      ['O', 'G', 'Y', 'R'],
      ['O', 'G', 'Y', 'P'],
      ['O', 'G', 'P', 'B'],
      ['O', 'G', 'P', 'R'],
      ['O', 'G', 'P', 'Y'],
      ['O', 'R', 'B', 'G'],
      ['O', 'R', 'B', 'Y'],
      ['O', 'R', 'B', 'P'],
      ['O', 'R', 'G', 'B'],
      ['O', 'R', 'G', 'Y'],
      ['O', 'R', 'G', 'P'],
      ['O', 'R', 'Y', 'B'],
      ['O', 'R', 'Y', 'G'],
      ['O', 'R', 'Y', 'P'],
      ['O', 'R', 'P', 'B'],
      ['O', 'R', 'P', 'G'],
      ['O', 'R', 'P', 'Y'],
      ['O', 'Y', 'B', 'G'],
      ['O', 'Y', 'B', 'R'],
      ['O', 'Y', 'B', 'P'],
      ['O', 'Y', 'G', 'B'],
      ['O', 'Y', 'G', 'R'],
      ['O', 'Y', 'G', 'P'],
      ['O', 'Y', 'R', 'B'],
      ['O', 'Y', 'R', 'G'],
      ['O', 'Y', 'R', 'P'],
      ['O', 'Y', 'P', 'B'],
      ['O', 'Y', 'P', 'G'],
      ['O', 'Y', 'P', 'R'],
      ['O', 'P', 'B', 'G'],
      ['O', 'P', 'B', 'R'],
      ['O', 'P', 'B', 'Y'],
      ['O', 'P', 'G', 'B'],
      ['O', 'P', 'G', 'R'],
      ['O', 'P', 'G', 'Y'],
      ['O', 'P', 'R', 'B'],
      ['O', 'P', 'R', 'G'],
      ['O', 'P', 'R', 'Y'],
      ['O', 'P', 'Y', 'B'],
      ['O', 'P', 'Y', 'G'],
      ['O', 'P', 'Y', 'R'],
      ['R', 'B', 'G', 'O'],
      ['R', 'B', 'G', 'Y'],
      ['R', 'B', 'G', 'P'],
      ['R', 'B', 'O', 'G'],
      ['R', 'B', 'O', 'Y'],
      ['R', 'B', 'O', 'P'],
      ['R', 'B', 'Y', 'G'],
      ['R', 'B', 'Y', 'O'],
      ['R', 'B', 'Y', 'P'],
      ['R', 'B', 'P', 'G'],
      ['R', 'B', 'P', 'O'],
      ['R', 'B', 'P', 'Y'],
      ['R', 'G', 'B', 'O'],
      ['R', 'G', 'B', 'Y'],
      ['R', 'G', 'B', 'P'],
      ['R', 'G', 'O', 'B'],
      ['R', 'G', 'O', 'Y'],
      ['R', 'G', 'O', 'P'],
      ['R', 'G', 'Y', 'B'],
      ['R', 'G', 'Y', 'O'],
      ['R', 'G', 'Y', 'P'],
      ['R', 'G', 'P', 'B'],
      ['R', 'G', 'P', 'O'],
      ['R', 'G', 'P', 'Y'],
      ['R', 'O', 'B', 'G'],
      ['R', 'O', 'B', 'Y'],
      ['R', 'O', 'B', 'P'],
      ['R', 'O', 'G', 'B'],
      ['R', 'O', 'G', 'Y'],
      ['R', 'O', 'G', 'P'],
      ['R', 'O', 'Y', 'B'],
      ['R', 'O', 'Y', 'G'],
      ['R', 'O', 'Y', 'P'],
      ['R', 'O', 'P', 'B'],
      ['R', 'O', 'P', 'G'],
      ['R', 'O', 'P', 'Y'],
      ['R', 'Y', 'B', 'G'],
      ['R', 'Y', 'B', 'O'],
      ['R', 'Y', 'B', 'P'],
      ['R', 'Y', 'G', 'B'],
      ['R', 'Y', 'G', 'O'],
      ['R', 'Y', 'G', 'P'],
      ['R', 'Y', 'O', 'B'],
      ['R', 'Y', 'O', 'G'],
      ['R', 'Y', 'O', 'P'],
      ['R', 'Y', 'P', 'B'],
      ['R', 'Y', 'P', 'G'],
      ['R', 'Y', 'P', 'O'],
      ['R', 'P', 'B', 'G'],
      ['R', 'P', 'B', 'O'],
      ['R', 'P', 'B', 'Y'],
      ['R', 'P', 'G', 'B'],
      ['R', 'P', 'G', 'O'],
      ['R', 'P', 'G', 'Y'],
      ['R', 'P', 'O', 'B'],
      ['R', 'P', 'O', 'G'],
      ['R', 'P', 'O', 'Y'],
      ['R', 'P', 'Y', 'B'],
      ['R', 'P', 'Y', 'G'],
      ['R', 'P', 'Y', 'O'],
      ['Y', 'B', 'G', 'O'],
      ['Y', 'B', 'G', 'R'],
      ['Y', 'B', 'G', 'P'],
      ['Y', 'B', 'O', 'G'],
      ['Y', 'B', 'O', 'R'],
      ['Y', 'B', 'O', 'P'],
      ['Y', 'B', 'R', 'G'],
      ['Y', 'B', 'R', 'O'],
      ['Y', 'B', 'R', 'P'],
      ['Y', 'B', 'P', 'G'],
      ['Y', 'B', 'P', 'O'],
      ['Y', 'B', 'P', 'R'],
      ['Y', 'G', 'B', 'O'],
      ['Y', 'G', 'B', 'R'],
      ['Y', 'G', 'B', 'P'],
      ['Y', 'G', 'O', 'B'],
      ['Y', 'G', 'O', 'R'],
      ['Y', 'G', 'O', 'P'],
      ['Y', 'G', 'R', 'B'],
      ['Y', 'G', 'R', 'O'],
      ['Y', 'G', 'R', 'P'],
      ['Y', 'G', 'P', 'B'],
      ['Y', 'G', 'P', 'O'],
      ['Y', 'G', 'P', 'R'],
      ['Y', 'O', 'B', 'G'],
      ['Y', 'O', 'B', 'R'],
      ['Y', 'O', 'B', 'P'],
      ['Y', 'O', 'G', 'B'],
      ['Y', 'O', 'G', 'R'],
      ['Y', 'O', 'G', 'P'],
      ['Y', 'O', 'R', 'B'],
      ['Y', 'O', 'R', 'G'],
      ['Y', 'O', 'R', 'P'],
      ['Y', 'O', 'P', 'B'],
      ['Y', 'O', 'P', 'G'],
      ['Y', 'O', 'P', 'R'],
      ['Y', 'R', 'B', 'G'],
      ['Y', 'R', 'B', 'O'],
      ['Y', 'R', 'B', 'P'],
      ['Y', 'R', 'G', 'B'],
      ['Y', 'R', 'G', 'O'],
      ['Y', 'R', 'G', 'P'],
      ['Y', 'R', 'O', 'B'],
      ['Y', 'R', 'O', 'G'],
      ['Y', 'R', 'O', 'P'],
      ['Y', 'R', 'P', 'B'],
      ['Y', 'R', 'P', 'G'],
      ['Y', 'R', 'P', 'O'],
      ['Y', 'P', 'B', 'G'],
      ['Y', 'P', 'B', 'O'],
      ['Y', 'P', 'B', 'R'],
      ['Y', 'P', 'G', 'B'],
      ['Y', 'P', 'G', 'O'],
      ['Y', 'P', 'G', 'R'],
      ['Y', 'P', 'O', 'B'],
      ['Y', 'P', 'O', 'G'],
      ['Y', 'P', 'O', 'R'],
      ['Y', 'P', 'R', 'B'],
      ['Y', 'P', 'R', 'G'],
      ['Y', 'P', 'R', 'O'],
      ['P', 'B', 'G', 'O'],
      ['P', 'B', 'G', 'R'],
      ['P', 'B', 'G', 'Y'],
      ['P', 'B', 'O', 'G'],
      ['P', 'B', 'O', 'R'],
      ['P', 'B', 'O', 'Y'],
      ['P', 'B', 'R', 'G'],
      ['P', 'B', 'R', 'O'],
      ['P', 'B', 'R', 'Y'],
      ['P', 'B', 'Y', 'G'],
      ['P', 'B', 'Y', 'O'],
      ['P', 'B', 'Y', 'R'],
      ['P', 'G', 'B', 'O'],
      ['P', 'G', 'B', 'R'],
      ['P', 'G', 'B', 'Y'],
      ['P', 'G', 'O', 'B'],
      ['P', 'G', 'O', 'R'],
      ['P', 'G', 'O', 'Y'],
      ['P', 'G', 'R', 'B'],
      ['P', 'G', 'R', 'O'],
      ['P', 'G', 'R', 'Y'],
      ['P', 'G', 'Y', 'B'],
      ['P', 'G', 'Y', 'O'],
      ['P', 'G', 'Y', 'R'],
      ['P', 'O', 'B', 'G'],
      ['P', 'O', 'B', 'R'],
      ['P', 'O', 'B', 'Y'],
      ['P', 'O', 'G', 'B'],
      ['P', 'O', 'G', 'R'],
      ['P', 'O', 'G', 'Y'],
      ['P', 'O', 'R', 'B'],
      ['P', 'O', 'R', 'G'],
      ['P', 'O', 'R', 'Y'],
      ['P', 'O', 'Y', 'B'],
      ['P', 'O', 'Y', 'G'],
      ['P', 'O', 'Y', 'R'],
      ['P', 'R', 'B', 'G'],
      ['P', 'R', 'B', 'O'],
      ['P', 'R', 'B', 'Y'],
      ['P', 'R', 'G', 'B'],
      ['P', 'R', 'G', 'O'],
      ['P', 'R', 'G', 'Y'],
      ['P', 'R', 'O', 'B'],
      ['P', 'R', 'O', 'G'],
      ['P', 'R', 'O', 'Y'],
      ['P', 'R', 'Y', 'B'],
      ['P', 'R', 'Y', 'G'],
      ['P', 'R', 'Y', 'O'],
      ['P', 'Y', 'B', 'G'],
      ['P', 'Y', 'B', 'O'],
      ['P', 'Y', 'B', 'R'],
      ['P', 'Y', 'G', 'B'],
      ['P', 'Y', 'G', 'O'],
      ['P', 'Y', 'G', 'R'],
      ['P', 'Y', 'O', 'B'],
      ['P', 'Y', 'O', 'G'],
      ['P', 'Y', 'O', 'R'],
      ['P', 'Y', 'R', 'B'],
      ['P', 'Y', 'R', 'G'],
      ['P', 'Y', 'R', 'O']] : List Code),
    (loopRun (honest s) 7 none S0 []).2.Nodup :=
  List.forall_mem_cons.mpr ⟨nodup_of_eq rs60 (by decide),
  List.forall_mem_cons.mpr ⟨nodup_of_eq rs61 (by decide),
  List.forall_mem_cons.mpr ⟨nodup_of_eq rs62 (by decide),
  List.forall_mem_cons.mpr ⟨nodup_of_eq rs63 (by decide),
  List.forall_mem_cons.mpr ⟨nodup_of_eq rs64 (by decide),
  List.forall_mem_cons.mpr ⟨nodup_of_eq rs65 (by decide),
  List.forall_mem_cons.mpr ⟨nodup_of_eq rs66 (by decide),
  List.forall_mem_cons.mpr ⟨nodup_of_eq rs67 (by decide),
  List.forall_mem_cons.mpr ⟨nodup_of_eq rs68 (by decide),
  List.forall_mem_cons.mpr ⟨nodup_of_eq rs69 (by decide),
  ntl7⟩⟩⟩⟩⟩⟩⟩⟩⟩⟩


lemma ntl5 : ∀ s ∈ ([['B', 'P', 'G', 'Y'],
      ['B', 'P', 'O', 'G'],
      ['B', 'P', 'O', 'R'],
      ['B', 'P', 'O', 'Y'],
      ['B', 'P', 'R', 'G'],
      ['B', 'P', 'R', 'O'],
      ['B', 'P', 'R', 'Y'],
      ['B', 'P', 'Y', 'G'],
      ['B', 'P', 'Y', 'O'],
      ['B', 'P', 'Y', 'R'],
      ['G', 'B', 'O', 'R'],
      ['G', 'B', 'O', 'Y'],
      ['G', 'B', 'O', 'P'],
      ['G', 'B', 'R', 'O'],
      ['G', 'B', 'R', 'Y'],
      ['G', 'B', 'R', 'P'],
      ['G', 'B', 'Y', 'O'],
      ['G', 'B', 'Y', 'R'],
      ['G', 'B', 'Y', 'P'],
      ['G', 'B', 'P', 'O'],
      ['G', 'B', 'P', 'R'],
      ['G', 'B', 'P', 'Y'],
      ['G', 'O', 'B', 'R'],
      ['G', 'O', 'B', 'Y'],
      ['G', 'O', 'B', 'P'],
      ['G', 'O', 'R', 'B'],
      ['G', 'O', 'R', 'Y'],
      ['G', 'O', 'R', 'P'],
      ['G', 'O', 'Y', 'B'],
      ['G', 'O', 'Y', 'R'],
      ['G', 'O', 'Y', 'P'],
      ['G', 'O', 'P', 'B'],
      ['G', 'O', 'P', 'R'],
      ['G', 'O', 'P', 'Y'],
      ['G', 'R', 'B', 'O'],
      ['G', 'R', 'B', 'Y'],
      ['G', 'R', 'B', 'P'],
      ['G', 'R', 'O', 'B'],
      ['G', 'R', 'O', 'Y'],
      ['G', 'R', 'O', 'P'],
      ['G', 'R', 'Y', 'B'],
      ['G', 'R', 'Y', 'O'],
      ['G', 'R', 'Y', 'P'],
      ['G', 'R', 'P', 'B'],
      ['G', 'R', 'P', 'O'],
      ['G', 'R', 'P', 'Y'],
      ['G', 'Y', 'B', 'O'],
      ['G', 'Y', 'B', 'R'],
      ['G', 'Y', 'B', 'P'],
      ['G', 'Y', 'O', 'B'],
      ['G', 'Y', 'O', 'R'],
      ['G', 'Y', 'O', 'P'],
      ['G', 'Y', 'R', 'B'],
      ['G', 'Y', 'R', 'O'],
      ['G', 'Y', 'R', 'P'],
      ['G', 'Y', 'P', 'B'],
      ['G', 'Y', 'P', 'O'],
      ['G', 'Y', 'P', 'R'],
      ['G', 'P', 'B', 'O'],
      ['G', 'P', 'B', 'R'],
      ['G', 'P', 'B', 'Y'],
      ['G', 'P', 'O', 'B'],
      ['G', 'P', 'O', 'R'],
      ['G', 'P', 'O', 'Y'],
      ['G', 'P', 'R', 'B'],
      ['G', 'P', 'R', 'O'],
      ['G', 'P', 'R', 'Y'],
      ['G', 'P', 'Y', 'B'],
      ['G', 'P', 'Y', 'O'],
      ['G', 'P', 'Y', 'R'],
      ['O', 'B', 'G', 'R'],
      ['O', 'B', 'G', 'Y'],
      ['O', 'B', 'G', 'P'],
      ['O', 'B', 'R', 'G'],
      ['O', 'B', 'R', 'Y'],
      ['O', 'B', 'R', 'P'],
      ['O', 'B', 'Y', 'G'],
      ['O', 'B', 'Y', 'R'],
      ['O', 'B', 'Y', 'P'],
      ['O', 'B', 'P', 'G'],
      ['O', 'B', 'P', 'R'],
      ['O', 'B', 'P', 'Y'],
      ['O', 'G', 'B', 'R'],
      ['O', 'G', 'B', 'Y'],
      ['O', 'G', 'B', 'P'],
      ['O', 'G', 'R', 'B'],
      ['O', 'G', 'R', 'Y'],
      ['O', 'G', 'R', 'P'],
      ['O', 'G', 'Y', 'B'],
      ['O', 'G', 'Y', 'R'],
      ['O', 'G', 'Y', 'P'],
      ['O', 'G', 'P', 'B'],
      ['O', 'G', 'P', 'R'],
      ['O', 'G', 'P', 'Y'],
      ['O', 'R', 'B', 'G'],
      ['O', 'R', 'B', 'Y'],
      ['O', 'R', 'B', 'P'],
      ['O', 'R', 'G', 'B'],
      ['O', 'R', 'G', 'Y'],
      ['O', 'R', 'G', 'P'],
      ['O', 'R', 'Y', 'B'],
      ['O', 'R', 'Y', 'G'],
      ['O', 'R', 'Y', 'P'],
      ['O', 'R', 'P', 'B'],
      ['O', 'R', 'P', 'G'],
      ['O', 'R', 'P', 'Y'],
      ['O', 'Y', 'B', 'G'],
      ['O', 'Y', 'B', 'R'],
      ['O', 'Y', 'B', 'P'],
      ['O', 'Y', 'G', 'B'],
      ['O', 'Y', 'G', 'R'],
      ['O', 'Y', 'G', 'P'],
      ['O', 'Y', 'R', 'B'],
      ['O', 'Y', 'R', 'G'],
      ['O', 'Y', 'R', 'P'],
      ['O', 'Y', 'P', 'B'],
      ['O', 'Y', 'P', 'G'],
      ['O', 'Y', 'P', 'R'],
      ['O', 'P', 'B', 'G'],
      ['O', 'P', 'B', 'R'],
      ['O', 'P', 'B', 'Y'],
      ['O', 'P', 'G', 'B'],
      ['O', 'P', 'G', 'R'],
      ['O', 'P', 'G', 'Y'],
      ['O', 'P', 'R', 'B'],
      ['O', 'P', 'R', 'G'],
      ['O', 'P', 'R', 'Y'],
      ['O', 'P', 'Y', 'B'],
      ['O', 'P', 'Y', 'G'],
      ['O', 'P', 'Y', 'R'],
      ['R', 'B', 'G', 'O'],
      ['R', 'B', 'G', 'Y'],
      ['R', 'B', 'G', 'P'],
      ['R', 'B', 'O', 'G'],
      ['R', 'B', 'O', 'Y'],
      ['R', 'B', 'O', 'P'],
      ['R', 'B', 'Y', 'G'],
      ['R', 'B', 'Y', 'O'],
      ['R', 'B', 'Y', 'P'],
      ['R', 'B', 'P', 'G'],
      ['R', 'B', 'P', 'O'],
      ['R', 'B', 'P', 'Y'],
      ['R', 'G', 'B', 'O'],
      ['R', 'G', 'B', 'Y'],
      ['R', 'G', 'B', 'P'],
      ['R', 'G', 'O', 'B'],
      ['R', 'G', 'O', 'Y'],
      ['R', 'G', 'O', 'P'],
      ['R', 'G', 'Y', 'B'],
      ['R', 'G', 'Y', 'O'],
      ['R', 'G', 'Y', 'P'],
      ['R', 'G', 'P', 'B'],
      ['R', 'G', 'P', 'O'],
      ['R', 'G', 'P', 'Y'],
      ['R', 'O', 'B', 'G'],
      ['R', 'O', 'B', 'Y'],
      ['R', 'O', 'B', 'P'],
      ['R', 'O', 'G', 'B'],
      ['R', 'O', 'G', 'Y'],
      ['R', 'O', 'G', 'P'],
      ['R', 'O', 'Y', 'B'],
      ['R', 'O', 'Y', 'G'],
      ['R', 'O', 'Y', 'P'],
      ['R', 'O', 'P', 'B'],
      ['R', 'O', 'P', 'G'],
      ['R', 'O', 'P', 'Y'],
      ['R', 'Y', 'B', 'G'],
      ['R', 'Y', 'B', 'O'],
      ['R', 'Y', 'B', 'P'],
      ['R', 'Y', 'G', 'B'],
      ['R', 'Y', 'G', 'O'],
      ['R', 'Y', 'G', 'P'],
      ['R', 'Y', 'O', 'B'],
      ['R', 'Y', 'O', 'G'],
      ['R', 'Y', 'O', 'P'],
      ['R', 'Y', 'P', 'B'],
      ['R', 'Y', 'P', 'G'],
      ['R', 'Y', 'P', 'O'],
      ['R', 'P', 'B', 'G'],
      ['R', 'P', 'B', 'O'],
      ['R', 'P', 'B', 'Y'],
      ['R', 'P', 'G', 'B'],
      ['R', 'P', 'G', 'O'],
      ['R', 'P', 'G', 'Y'],
      ['R', 'P', 'O', 'B'],
      ['R', 'P', 'O', 'G'],
      ['R', 'P', 'O', 'Y'],
      ['R', 'P', 'Y', 'B'],
      ['R', 'P', 'Y', 'G'],
      ['R', 'P', 'Y', 'O'],
      ['Y', 'B', 'G', 'O'],
      ['Y', 'B', 'G', 'R'],
      ['Y', 'B', 'G', 'P'],
      ['Y', 'B', 'O', 'G'],
      ['Y', 'B', 'O', 'R'],
      ['Y', 'B', 'O', 'P'],
      ['Y', 'B', 'R', 'G'],
      ['Y', 'B', 'R', 'O'],
      ['Y', 'B', 'R', 'P'],
      ['Y', 'B', 'P', 'G'],
      ['Y', 'B', 'P', 'O'],
      ['Y', 'B', 'P', 'R'],
      ['Y', 'G', 'B', 'O'],
      ['Y', 'G', 'B', 'R'],
      ['Y', 'G', 'B', 'P'],
      ['Y', 'G', 'O', 'B'],
      ['Y', 'G', 'O', 'R'],
      ['Y', 'G', 'O', 'P'],
      ['Y', 'G', 'R', 'B'],
      ['Y', 'G', 'R', 'O'],
      ['Y', 'G', 'R', 'P'],
      ['Y', 'G', 'P', 'B'],
      ['Y', 'G', 'P', 'O'],
      ['Y', 'G', 'P', 'R'],
      ['Y', 'O', 'B', 'G'],
      ['Y', 'O', 'B', 'R'],
      ['Y', 'O', 'B', 'P'],
      ['Y', 'O', 'G', 'B'],
      ['Y', 'O', 'G', 'R'],
      ['Y', 'O', 'G', 'P'],
      ['Y', 'O', 'R', 'B'],
      ['Y', 'O', 'R', 'G'],
      ['Y', 'O', 'R', 'P'],
      ['Y', 'O', 'P', 'B'],
      ['Y', 'O', 'P', 'G'],
      ['Y', 'O', 'P', 'R'],
      ['Y', 'R', 'B', 'G'],
      ['Y', 'R', 'B', 'O'],
      ['Y', 'R', 'B', 'P'],
      ['Y', 'R', 'G', 'B'],
      ['Y', 'R', 'G', 'O'],
      ['Y', 'R', 'G', 'P'],
      ['Y', 'R', 'O', 'B'],
      ['Y', 'R', 'O', 'G'],
      ['Y', 'R', 'O', 'P'],
      ['Y', 'R', 'P', 'B'],
      ['Y', 'R', 'P', 'G'],
      ['Y', 'R', 'P', 'O'],
      ['Y', 'P', 'B', 'G'],
      ['Y', 'P', 'B', 'O'],
      ['Y', 'P', 'B', 'R'],
      ['Y', 'P', 'G', 'B'],
      ['Y', 'P', 'G', 'O'],
      ['Y', 'P', 'G', 'R'],
      ['Y', 'P', 'O', 'B'],
      ['Y', 'P', 'O', 'G'],
      ['Y', 'P', 'O', 'R'],
      ['Y', 'P', 'R', 'B'],
      ['Y', 'P', 'R', 'G'],
      ['Y', 'P', 'R', 'O'],
      ['P', 'B', 'G', 'O'],
      ['P', 'B', 'G', 'R'],
      ['P', 'B', 'G', 'Y'],
      ['P', 'B', 'O', 'G'],
      ['P', 'B', 'O', 'R'],
      ['P', 'B', 'O', 'Y'],
      ['P', 'B', 'R', 'G'],
      ['P', 'B', 'R', 'O'],
      ['P', 'B', 'R', 'Y'],
      ['P', 'B', 'Y', 'G'],
      ['P', 'B', 'Y', 'O'],
      ['P', 'B', 'Y', 'R'],
      ['P', 'G', 'B', 'O'],
      ['P', 'G', 'B', 'R'],
      ['P', 'G', 'B', 'Y'],
      ['P', 'G', 'O', 'B'],
      ['P', 'G', 'O', 'R'],
      ['P', 'G', 'O', 'Y'],
      ['P', 'G', 'R', 'B'],
      ['P', 'G', 'R', 'O'],
      ['P', 'G', 'R', 'Y'],
      ['P', 'G', 'Y', 'B'],
      ['P', 'G', 'Y', 'O'],
      ['P', 'G', 'Y', 'R'],
      ['P', 'O', 'B', 'G'],
      ['P', 'O', 'B', 'R'],
      ['P', 'O', 'B', 'Y'],
      ['P', 'O', 'G', 'B'],
      ['P', 'O', 'G', 'R'],
      ['P', 'O', 'G', 'Y'],
      ['P', 'O', 'R', 'B'],
      ['P', 'O', 'R', 'G'],
      ['P', 'O', 'R', 'Y'],
      ['P', 'O', 'Y', 'B'],
      ['P', 'O', 'Y', 'G'],
      ['P', 'O', 'Y', 'R'],
      ['P', 'R', 'B', 'G'],
      ['P', 'R', 'B', 'O'],
      ['P', 'R', 'B', 'Y'],
      ['P', 'R', 'G', 'B'],
      ['P', 'R', 'G', 'O'],
      ['P', 'R', 'G', 'Y'],
      ['P', 'R', 'O', 'B'],
      ['P', 'R', 'O', 'G'],
      ['P', 'R', 'O', 'Y'],
      ['P', 'R', 'Y', 'B'],
      ['P', 'R', 'Y', 'G'],
      ['P', 'R', 'Y', 'O'],
      ['P', 'Y', 'B', 'G'],
      ['P', 'Y', 'B', 'O'],
      ['P', 'Y', 'B', 'R'],
      ['P', 'Y', 'G', 'B'],
      ['P', 'Y', 'G', 'O'],
      ['P', 'Y', 'G', 'R'],
      ['P', 'Y', 'O', 'B'],
      ['P', 'Y', 'O', 'G'],
      ['P', 'Y', 'O', 'R'],
      ['P', 'Y', 'R', 'B'],
      ['P', 'Y', 'R', 'G'],
      ['P', 'Y', 'R', 'O']] : List Code),
    (loopRun (honest s) 7 none S0 []).2.Nodup :=
  List.forall_mem_cons.mpr ⟨nodup_of_eq rs50 (by decide),
  List.forall_mem_cons.mpr ⟨nodup_of_eq rs51 (by decide),
  List.forall_mem_cons.mpr ⟨nodup_of_eq rs52 (by decide),
  List.forall_mem_cons.mpr ⟨nodup_of_eq rs53 (by decide),
  List.forall_mem_cons.mpr ⟨nodup_of_eq rs54 (by decide),
  List.forall_mem_cons.mpr ⟨nodup_of_eq rs55 (by decide),
  List.forall_mem_cons.mpr ⟨nodup_of_eq rs56 (by decide),
  List.forall_mem_cons.mpr ⟨nodup_of_eq rs57 (by decide),
  List.forall_mem_cons.mpr ⟨nodup_of_eq rs58 (by decide),
  List.forall_mem_cons.mpr ⟨nodup_of_eq rs59 (by decide),
  ntl6⟩⟩⟩⟩⟩⟩⟩⟩⟩⟩


lemma ntl4 : ∀ s ∈ ([['B', 'Y', 'O', 'R'],
      ['B', 'Y', 'O', 'P'],
      ['B', 'Y', 'R', 'G'],
      ['B', 'Y', 'R', 'O'],
      ['B', 'Y', 'R', 'P'],
      ['B', 'Y', 'P', 'G'],
      ['B', 'Y', 'P', 'O'],
      ['B', 'Y', 'P', 'R'],
      ['B', 'P', 'G', 'O'],
      ['B', 'P', 'G', 'R'],
      ['B', 'P', 'G', 'Y'],
      ['B', 'P', 'O', 'G'],
      ['B', 'P', 'O', 'R'],
      ['B', 'P', 'O', 'Y'],
      ['B', 'P', 'R', 'G'],
      ['B', 'P', 'R', 'O'],
      ['B', 'P', 'R', 'Y'],
      ['B', 'P', 'Y', 'G'],
      ['B', 'P', 'Y', 'O'],
      ['B', 'P', 'Y', 'R'],
      ['G', 'B', 'O', 'R'],
      ['G', 'B', 'O', 'Y'],
      ['G', 'B', 'O', 'P'],
      ['G', 'B', 'R', 'O'],
      ['G', 'B', 'R', 'Y'],
      ['G', 'B', 'R', 'P'],
      ['G', 'B', 'Y', 'O'],
      ['G', 'B', 'Y', 'R'],
      ['G', 'B', 'Y', 'P'],
      ['G', 'B', 'P', 'O'],
      ['G', 'B', 'P', 'R'],
      ['G', 'B', 'P', 'Y'],
      ['G', 'O', 'B', 'R'],
      ['G', 'O', 'B', 'Y'],
      ['G', 'O', 'B', 'P'],
      ['G', 'O', 'R', 'B'],
      ['G', 'O', 'R', 'Y'],
      ['G', 'O', 'R', 'P'],
      ['G', 'O', 'Y', 'B'],
      ['G', 'O', 'Y', 'R'],
      ['G', 'O', 'Y', 'P'],
      ['G', 'O', 'P', 'B'],
      ['G', 'O', 'P', 'R'],
      ['G', 'O', 'P', 'Y'],
      ['G', 'R', 'B', 'O'],
      ['G', 'R', 'B', 'Y'],
      ['G', 'R', 'B', 'P'],
      ['G', 'R', 'O', 'B'],
      ['G', 'R', 'O', 'Y'],
      ['G', 'R', 'O', 'P'],
      ['G', 'R', 'Y', 'B'],
      ['G', 'R', 'Y', 'O'],
      ['G', 'R', 'Y', 'P'],
      ['G', 'R', 'P', 'B'],
      ['G', 'R', 'P', 'O'],
      ['G', 'R', 'P', 'Y'],
      ['G', 'Y', 'B', 'O'],
      ['G', 'Y', 'B', 'R'],
      ['G', 'Y', 'B', 'P'],
      ['G', 'Y', 'O', 'B'],
      ['G', 'Y', 'O', 'R'],
      ['G', 'Y', 'O', 'P'],
      ['G', 'Y', 'R', 'B'],
      ['G', 'Y', 'R', 'O'],
      ['G', 'Y', 'R', 'P'],
      ['G', 'Y', 'P', 'B'],
      ['G', 'Y', 'P', 'O'],
      ['G', 'Y', 'P', 'R'],
      ['G', 'P', 'B', 'O'],
      ['G', 'P', 'B', 'R'],
      ['G', 'P', 'B', 'Y'],
      ['G', 'P', 'O', 'B'],
      ['G', 'P', 'O', 'R'],
      ['G', 'P', 'O', 'Y'],
      ['G', 'P', 'R', 'B'],
      ['G', 'P', 'R', 'O'],
      ['G', 'P', 'R', 'Y'],
      ['G', 'P', 'Y', 'B'],
      ['G', 'P', 'Y', 'O'],
      ['G', 'P', 'Y', 'R'],
      ['O', 'B', 'G', 'R'],
      ['O', 'B', 'G', 'Y'],
      ['O', 'B', 'G', 'P'],
      ['O', 'B', 'R', 'G'],
      ['O', 'B', 'R', 'Y'],
      ['O', 'B', 'R', 'P'],
      ['O', 'B', 'Y', 'G'],
      ['O', 'B', 'Y', 'R'],
      ['O', 'B', 'Y', 'P'],
      ['O', 'B', 'P', 'G'],
      ['O', 'B', 'P', 'R'],
      ['O', 'B', 'P', 'Y'],
      ['O', 'G', 'B', 'R'],
      ['O', 'G', 'B', 'Y'],
      ['O', 'G', 'B', 'P'],
      ['O', 'G', 'R', 'B'],
      ['O', 'G', 'R', 'Y'],
      ['O', 'G', 'R', 'P'],
      ['O', 'G', 'Y', 'B'],
      ['O', 'G', 'Y', 'R'],
      ['O', 'G', 'Y', 'P'],
      ['O', 'G', 'P', 'B'],
      ['O', 'G', 'P', 'R'],
      ['O', 'G', 'P', 'Y'],
      ['O', 'R', 'B', 'G'],
      ['O', 'R', 'B', 'Y'],
      ['O', 'R', 'B', 'P'],
      ['O', 'R', 'G', 'B'],
      ['O', 'R', 'G', 'Y'],
      ['O', 'R', 'G', 'P'],
      ['O', 'R', 'Y', 'B'],
      ['O', 'R', 'Y', 'G'],
      ['O', 'R', 'Y', 'P'],
      ['O', 'R', 'P', 'B'],
      ['O', 'R', 'P', 'G'],
      ['O', 'R', 'P', 'Y'],
      ['O', 'Y', 'B', 'G'],
      ['O', 'Y', 'B', 'R'],
      ['O', 'Y', 'B', 'P'],
      ['O', 'Y', 'G', 'B'],
      ['O', 'Y', 'G', 'R'],
      ['O', 'Y', 'G', 'P'],
      ['O', 'Y', 'R', 'B'],
      ['O', 'Y', 'R', 'G'],
      ['O', 'Y', 'R', 'P'],
      ['O', 'Y', 'P', 'B'],
      ['O', 'Y', 'P', 'G'],
      ['O', 'Y', 'P', 'R'],
      ['O', 'P', 'B', 'G'],
      ['O', 'P', 'B', 'R'],
      ['O', 'P', 'B', 'Y'],
      ['O', 'P', 'G', 'B'],
      ['O', 'P', 'G', 'R'],
      ['O', 'P', 'G', 'Y'],
      ['O', 'P', 'R', 'B'],
      ['O', 'P', 'R', 'G'],
      ['O', 'P', 'R', 'Y'],
      ['O', 'P', 'Y', 'B'],
      ['O', 'P', 'Y', 'G'],
      ['O', 'P', 'Y', 'R'],
      ['R', 'B', 'G', 'O'],
      ['R', 'B', 'G', 'Y'],
      ['R', 'B', 'G', 'P'],
      ['R', 'B', 'O', 'G'],
      ['R', 'B', 'O', 'Y'],
      ['R', 'B', 'O', 'P'],
      ['R', 'B', 'Y', 'G'],
      ['R', 'B', 'Y', 'O'],
      ['R', 'B', 'Y', 'P'],
      ['R', 'B', 'P', 'G'],
      ['R', 'B', 'P', 'O'],
      ['R', 'B', 'P', 'Y'],
      ['R', 'G', 'B', 'O'],
      ['R', 'G', 'B', 'Y'],
      ['R', 'G', 'B', 'P'],
      ['R', 'G', 'O', 'B'],
      ['R', 'G', 'O', 'Y'],
      ['R', 'G', 'O', 'P'],
      ['R', 'G', 'Y', 'B'],
      ['R', 'G', 'Y', 'O'],
      ['R', 'G', 'Y', 'P'],
      ['R', 'G', 'P', 'B'],
      ['R', 'G', 'P', 'O'],
      ['R', 'G', 'P', 'Y'],
      ['R', 'O', 'B', 'G'],
      ['R', 'O', 'B', 'Y'],
      ['R', 'O', 'B', 'P'],
      ['R', 'O', 'G', 'B'],
      ['R', 'O', 'G', 'Y'],
      ['R', 'O', 'G', 'P'],
      ['R', 'O', 'Y', 'B'],
      ['R', 'O', 'Y', 'G'],
      ['R', 'O', 'Y', 'P'],
      ['R', 'O', 'P', 'B'],
      ['R', 'O', 'P', 'G'],
      ['R', 'O', 'P', 'Y'],
      ['R', 'Y', 'B', 'G'],
      ['R', 'Y', 'B', 'O'],
      ['R', 'Y', 'B', 'P'],
      ['R', 'Y', 'G', 'B'],
      ['R', 'Y', 'G', 'O'],
      ['R', 'Y', 'G', 'P'],
      ['R', 'Y', 'O', 'B'],
      ['R', 'Y', 'O', 'G'],
      ['R', 'Y', 'O', 'P'],
      ['R', 'Y', 'P', 'B'],
      ['R', 'Y', 'P', 'G'],
      ['R', 'Y', 'P', 'O'],
      ['R', 'P', 'B', 'G'],
      ['R', 'P', 'B', 'O'],
      ['R', 'P', 'B', 'Y'],
      ['R', 'P', 'G', 'B'],
      ['R', 'P', 'G', 'O'],
      ['R', 'P', 'G', 'Y'],
      ['R', 'P', 'O', 'B'],
      ['R', 'P', 'O', 'G'],
      ['R', 'P', 'O', 'Y'],
      ['R', 'P', 'Y', 'B'],
      ['R', 'P', 'Y', 'G'],
      ['R', 'P', 'Y', 'O'],
      ['Y', 'B', 'G', 'O'],
      ['Y', 'B', 'G', 'R'],
      ['Y', 'B', 'G', 'P'],
      ['Y', 'B', 'O', 'G'],
      ['Y', 'B', 'O', 'R'],
      ['Y', 'B', 'O', 'P'],
      ['Y', 'B', 'R', 'G'],
      ['Y', 'B', 'R', 'O'],
      ['Y', 'B', 'R', 'P'],
      ['Y', 'B', 'P', 'G'],
      ['Y', 'B', 'P', 'O'],
      ['Y', 'B', 'P', 'R'],
      ['Y', 'G', 'B', 'O'],
      ['Y', 'G', 'B', 'R'],
      ['Y', 'G', 'B', 'P'],
      ['Y', 'G', 'O', 'B'],
      ['Y', 'G', 'O', 'R'],
      ['Y', 'G', 'O', 'P'],
      ['Y', 'G', 'R', 'B'],
      ['Y', 'G', 'R', 'O'],
      ['Y', 'G', 'R', 'P'],
      ['Y', 'G', 'P', 'B'],
      ['Y', 'G', 'P', 'O'],
      ['Y', 'G', 'P', 'R'],
      ['Y', 'O', 'B', 'G'],
      ['Y', 'O', 'B', 'R'],
      ['Y', 'O', 'B', 'P'],
      ['Y', 'O', 'G', 'B'],
      ['Y', 'O', 'G', 'R'],
      ['Y', 'O', 'G', 'P'],
      ['Y', 'O', 'R', 'B'],
      ['Y', 'O', 'R', 'G'],
      ['Y', 'O', 'R', 'P'],
      ['Y', 'O', 'P', 'B'],
      ['Y', 'O', 'P', 'G'],
      ['Y', 'O', 'P', 'R'],
      ['Y', 'R', 'B', 'G'],
      ['Y', 'R', 'B', 'O'],
      ['Y', 'R', 'B', 'P'],
      ['Y', 'R', 'G', 'B'],
      ['Y', 'R', 'G', 'O'],
      ['Y', 'R', 'G', 'P'],
      ['Y', 'R', 'O', 'B'],
      ['Y', 'R', 'O', 'G'],
      ['Y', 'R', 'O', 'P'],
      ['Y', 'R', 'P', 'B'],
      ['Y', 'R', 'P', 'G'],
      ['Y', 'R', 'P', 'O'],
      ['Y', 'P', 'B', 'G'],
      ['Y', 'P', 'B', 'O'],
      ['Y', 'P', 'B', 'R'],
      ['Y', 'P', 'G', 'B'],
      ['Y', 'P', 'G', 'O'],
      ['Y', 'P', 'G', 'R'],
      ['Y', 'P', 'O', 'B'],
      ['Y', 'P', 'O', 'G'],
      ['Y', 'P', 'O', 'R'],
      ['Y', 'P', 'R', 'B'],
      ['Y', 'P', 'R', 'G'],
      ['Y', 'P', 'R', 'O'],
      ['P', 'B', 'G', 'O'],
      ['P', 'B', 'G', 'R'],
      ['P', 'B', 'G', 'Y'],
      ['P', 'B', 'O', 'G'],
      ['P', 'B', 'O', 'R'],
      ['P', 'B', 'O', 'Y'],
      ['P', 'B', 'R', 'G'],
      ['P', 'B', 'R', 'O'],
      ['P', 'B', 'R', 'Y'],
      ['P', 'B', 'Y', 'G'],
      ['P', 'B', 'Y', 'O'],
      ['P', 'B', 'Y', 'R'],
      ['P', 'G', 'B', 'O'],
      ['P', 'G', 'B', 'R'],
      ['P', 'G', 'B', 'Y'],
      ['P', 'G', 'O', 'B'],
      ['P', 'G', 'O', 'R'],
      ['P', 'G', 'O', 'Y'],
      ['P', 'G', 'R', 'B'],
      ['P', 'G', 'R', 'O'],
      ['P', 'G', 'R', 'Y'],
      ['P', 'G', 'Y', 'B'],
      ['P', 'G', 'Y', 'O'],
      ['P', 'G', 'Y', 'R'],
      ['P', 'O', 'B', 'G'],
      ['P', 'O', 'B', 'R'],
      ['P', 'O', 'B', 'Y'],
      ['P', 'O', 'G', 'B'],
      ['P', 'O', 'G', 'R'],
      ['P', 'O', 'G', 'Y'],
      ['P', 'O', 'R', 'B'],
      ['P', 'O', 'R', 'G'],
      ['P', 'O', 'R', 'Y'],
      ['P', 'O', 'Y', 'B'],
      ['P', 'O', 'Y', 'G'],
      ['P', 'O', 'Y', 'R'],
      ['P', 'R', 'B', 'G'],
      ['P', 'R', 'B', 'O'],
      ['P', 'R', 'B', 'Y'],
      ['P', 'R', 'G', 'B'],
      ['P', 'R', 'G', 'O'],
      ['P', 'R', 'G', 'Y'],
      ['P', 'R', 'O', 'B'],
      ['P', 'R', 'O', 'G'],
      ['P', 'R', 'O', 'Y'],
      ['P', 'R', 'Y', 'B'],
      ['P', 'R', 'Y', 'G'],
      ['P', 'R', 'Y', 'O'],
      ['P', 'Y', 'B', 'G'],
      ['P', 'Y', 'B', 'O'],
      ['P', 'Y', 'B', 'R'],
      ['P', 'Y', 'G', 'B'],
      ['P', 'Y', 'G', 'O'],
      ['P', 'Y', 'G', 'R'],
      ['P', 'Y', 'O', 'B'],
      ['P', 'Y', 'O', 'G'],
      ['P', 'Y', 'O', 'R'],
      ['P', 'Y', 'R', 'B'],
      ['P', 'Y', 'R', 'G'],
      ['P', 'Y', 'R', 'O']] : List Code),
    (loopRun (honest s) 7 none S0 []).2.Nodup :=
  List.forall_mem_cons.mpr ⟨nodup_of_eq rs40 (by decide),
  List.forall_mem_cons.mpr ⟨nodup_of_eq rs41 (by decide),
  List.forall_mem_cons.mpr ⟨nodup_of_eq rs42 (by decide),
  List.forall_mem_cons.mpr ⟨nodup_of_eq rs43 (by decide),
  List.forall_mem_cons.mpr ⟨nodup_of_eq rs44 (by decide),
  List.forall_mem_cons.mpr ⟨nodup_of_eq rs45 (by decide),
  List.forall_mem_cons.mpr ⟨nodup_of_eq rs46 (by decide),
  List.forall_mem_cons.mpr ⟨nodup_of_eq rs47 (by decide),
  List.forall_mem_cons.mpr ⟨nodup_of_eq rs48 (by decide),
  List.forall_mem_cons.mpr ⟨nodup_of_eq rs49 (by decide),
  ntl5⟩⟩⟩⟩⟩⟩⟩⟩⟩⟩


lemma ntl3 : ∀ s ∈ ([['B', 'R', 'Y', 'G'],
      ['B', 'R', 'Y', 'O'],
      ['B', 'R', 'Y', 'P'],
      ['B', 'R', 'P', 'G'],
      ['B', 'R', 'P', 'O'],
      ['B', 'R', 'P', 'Y'],
      ['B', 'Y', 'G', 'O'],
      ['B', 'Y', 'G', 'R'],
      ['B', 'Y', 'G', 'P'],
      ['B', 'Y', 'O', 'G'],
      ['B', 'Y', 'O', 'R'],
      ['B', 'Y', 'O', 'P'],
      ['B', 'Y', 'R', 'G'],
      ['B', 'Y', 'R', 'O'],
      ['B', 'Y', 'R', 'P'],
      ['B', 'Y', 'P', 'G'],
      ['B', 'Y', 'P', 'O'],
      ['B', 'Y', 'P', 'R'],
      ['B', 'P', 'G', 'O'],
      ['B', 'P', 'G', 'R'],
      ['B', 'P', 'G', 'Y'],
      ['B', 'P', 'O', 'G'],
      ['B', 'P', 'O', 'R'],
      ['B', 'P', 'O', 'Y'],
      ['B', 'P', 'R', 'G'],
      ['B', 'P', 'R', 'O'],
      ['B', 'P', 'R', 'Y'],
      ['B', 'P', 'Y', 'G'],
      ['B', 'P', 'Y', 'O'],
      ['B', 'P', 'Y', 'R'],
      ['G', 'B', 'O', 'R'],
      ['G', 'B', 'O', 'Y'],
      ['G', 'B', 'O', 'P'],
      ['G', 'B', 'R', 'O'],
      ['G', 'B', 'R', 'Y'],
      ['G', 'B', 'R', 'P'],
      ['G', 'B', 'Y', 'O'],
      ['G', 'B', 'Y', 'R'],
      ['G', 'B', 'Y', 'P'],
      ['G', 'B', 'P', 'O'],
      ['G', 'B', 'P', 'R'],
      ['G', 'B', 'P', 'Y'],
      ['G', 'O', 'B', 'R'],
      ['G', 'O', 'B', 'Y'],
      ['G', 'O', 'B', 'P'],
      ['G', 'O', 'R', 'B'],
      ['G', 'O', 'R', 'Y'],
      ['G', 'O', 'R', 'P'],
      ['G', 'O', 'Y', 'B'],
      ['G', 'O', 'Y', 'R'],
      ['G', 'O', 'Y', 'P'],
      ['G', 'O', 'P', 'B'],
      ['G', 'O', 'P', 'R'],
      ['G', 'O', 'P', 'Y'],
      ['G', 'R', 'B', 'O'],
      ['G', 'R', 'B', 'Y'],
      ['G', 'R', 'B', 'P'],
      ['G', 'R', 'O', 'B'],
      ['G', 'R', 'O', 'Y'],
      ['G', 'R', 'O', 'P'],
      ['G', 'R', 'Y', 'B'],
      ['G', 'R', 'Y', 'O'],
      ['G', 'R', 'Y', 'P'],
      ['G', 'R', 'P', 'B'],
      ['G', 'R', 'P', 'O'],
      ['G', 'R', 'P', 'Y'],
      ['G', 'Y', 'B', 'O'],
      ['G', 'Y', 'B', 'R'],
      ['G', 'Y', 'B', 'P'],
      ['G', 'Y', 'O', 'B'],
      ['G', 'Y', 'O', 'R'],
      ['G', 'Y', 'O', 'P'],
      ['G', 'Y', 'R', 'B'],
      ['G', 'Y', 'R', 'O'],
      ['G', 'Y', 'R', 'P'],
      ['G', 'Y', 'P', 'B'],
      ['G', 'Y', 'P', 'O'],
      ['G', 'Y', 'P', 'R'],
      ['G', 'P', 'B', 'O'],
      ['G', 'P', 'B', 'R'],
      ['G', 'P', 'B', 'Y'],
      ['G', 'P', 'O', 'B'],
      ['G', 'P', 'O', 'R'],
      ['G', 'P', 'O', 'Y'],
      ['G', 'P', 'R', 'B'],
      ['G', 'P', 'R', 'O'],
      ['G', 'P', 'R', 'Y'],
      ['G', 'P', 'Y', 'B'],
      ['G', 'P', 'Y', 'O'],
      ['G', 'P', 'Y', 'R'],
      ['O', 'B', 'G', 'R'],
      ['O', 'B', 'G', 'Y'],
      ['O', 'B', 'G', 'P'],
      ['O', 'B', 'R', 'G'],
      ['O', 'B', 'R', 'Y'],
      ['O', 'B', 'R', 'P'],
      ['O', 'B', 'Y', 'G'],
      ['O', 'B', 'Y', 'R'],
      ['O', 'B', 'Y', 'P'],
      ['O', 'B', 'P', 'G'],
      ['O', 'B', 'P', 'R'],
      ['O', 'B', 'P', 'Y'],
      ['O', 'G', 'B', 'R'],
      ['O', 'G', 'B', 'Y'],
      ['O', 'G', 'B', 'P'],
      ['O', 'G', 'R', 'B'],
      ['O', 'G', 'R', 'Y'],
      ['O', 'G', 'R', 'P'],
      ['O', 'G', 'Y', 'B'],
      ['O', 'G', 'Y', 'R'],
      ['O', 'G', 'Y', 'P'],
      ['O', 'G', 'P', 'B'],
      ['O', 'G', 'P', 'R'],
      ['O', 'G', 'P', 'Y'],
      ['O', 'R', 'B', 'G'],
      ['O', 'R', 'B', 'Y'],
      ['O', 'R', 'B', 'P'],
      ['O', 'R', 'G', 'B'],
      ['O', 'R', 'G', 'Y'],
      ['O', 'R', 'G', 'P'],
      ['O', 'R', 'Y', 'B'],
      ['O', 'R', 'Y', 'G'],
      ['O', 'R', 'Y', 'P'],
      ['O', 'R', 'P', 'B'],
      ['O', 'R', 'P', 'G'],
      ['O', 'R', 'P', 'Y'],
      ['O', 'Y', 'B', 'G'],
      ['O', 'Y', 'B', 'R'],
      ['O', 'Y', 'B', 'P'],
      ['O', 'Y', 'G', 'B'],
      ['O', 'Y', 'G', 'R'],
      ['O', 'Y', 'G', 'P'],
      ['O', 'Y', 'R', 'B'],
      ['O', 'Y', 'R', 'G'],
      ['O', 'Y', 'R', 'P'],
      ['O', 'Y', 'P', 'B'],
      ['O', 'Y', 'P', 'G'],
      ['O', 'Y', 'P', 'R'],
      ['O', 'P', 'B', 'G'],
      ['O', 'P', 'B', 'R'],
      ['O', 'P', 'B', 'Y'],
      ['O', 'P', 'G', 'B'],
      ['O', 'P', 'G', 'R'],
      ['O', 'P', 'G', 'Y'],
      ['O', 'P', 'R', 'B'],
      ['O', 'P', 'R', 'G'],
      ['O', 'P', 'R', 'Y'],
      ['O', 'P', 'Y', 'B'],
      ['O', 'P', 'Y', 'G'],
      ['O', 'P', 'Y', 'R'],
      ['R', 'B', 'G', 'O'],
      ['R', 'B', 'G', 'Y'],
      ['R', 'B', 'G', 'P'],
      ['R', 'B', 'O', 'G'],
      ['R', 'B', 'O', 'Y'],
      ['R', 'B', 'O', 'P'],
      ['R', 'B', 'Y', 'G'],
      ['R', 'B', 'Y', 'O'],
      ['R', 'B', 'Y', 'P'],
      ['R', 'B', 'P', 'G'],
      ['R', 'B', 'P', 'O'],
      ['R', 'B', 'P', 'Y'],
      ['R', 'G', 'B', 'O'],
      ['R', 'G', 'B', 'Y'],
      ['R', 'G', 'B', 'P'],
      ['R', 'G', 'O', 'B'],
      ['R', 'G', 'O', 'Y'],
      ['R', 'G', 'O', 'P'],
      ['R', 'G', 'Y', 'B'],
      ['R', 'G', 'Y', 'O'],
      ['R', 'G', 'Y', 'P'],
      ['R', 'G', 'P', 'B'],
      ['R', 'G', 'P', 'O'],
      ['R', 'G', 'P', 'Y'],
      ['R', 'O', 'B', 'G'],
      ['R', 'O', 'B', 'Y'],
      ['R', 'O', 'B', 'P'],
      ['R', 'O', 'G', 'B'],
      ['R', 'O', 'G', 'Y'],
      ['R', 'O', 'G', 'P'],
      ['R', 'O', 'Y', 'B'],
      ['R', 'O', 'Y', 'G'],
      ['R', 'O', 'Y', 'P'],
      ['R', 'O', 'P', 'B'],
      ['R', 'O', 'P', 'G'],
      ['R', 'O', 'P', 'Y'],
      ['R', 'Y', 'B', 'G'],
      ['R', 'Y', 'B', 'O'],
      ['R', 'Y', 'B', 'P'],
      ['R', 'Y', 'G', 'B'],
      ['R', 'Y', 'G', 'O'],
      ['R', 'Y', 'G', 'P'],
      ['R', 'Y', 'O', 'B'],
      ['R', 'Y', 'O', 'G'],
      ['R', 'Y', 'O', 'P'],
      ['R', 'Y', 'P', 'B'],
      ['R', 'Y', 'P', 'G'],
      ['R', 'Y', 'P', 'O'],
      ['R', 'P', 'B', 'G'],
      ['R', 'P', 'B', 'O'],
      ['R', 'P', 'B', 'Y'],
      ['R', 'P', 'G', 'B'],
      ['R', 'P', 'G', 'O'],
      ['R', 'P', 'G', 'Y'],
      ['R', 'P', 'O', 'B'],
      ['R', 'P', 'O', 'G'],
      ['R', 'P', 'O', 'Y'],
      ['R', 'P', 'Y', 'B'],
      ['R', 'P', 'Y', 'G'],
      ['R', 'P', 'Y', 'O'],
      ['Y', 'B', 'G', 'O'],
      ['Y', 'B', 'G', 'R'],
      ['Y', 'B', 'G', 'P'],
      ['Y', 'B', 'O', 'G'],
      ['Y', 'B', 'O', 'R'],
      ['Y', 'B', 'O', 'P'],
      ['Y', 'B', 'R', 'G'],
      ['Y', 'B', 'R', 'O'],
      ['Y', 'B', 'R', 'P'],
      ['Y', 'B', 'P', 'G'],
      ['Y', 'B', 'P', 'O'],
      ['Y', 'B', 'P', 'R'],
      ['Y', 'G', 'B', 'O'],
      ['Y', 'G', 'B', 'R'],
      ['Y', 'G', 'B', 'P'],
      ['Y', 'G', 'O', 'B'],
      ['Y', 'G', 'O', 'R'],
      ['Y', 'G', 'O', 'P'],
      ['Y', 'G', 'R', 'B'],
      ['Y', 'G', 'R', 'O'],
      ['Y', 'G', 'R', 'P'],
      ['Y', 'G', 'P', 'B'],
      ['Y', 'G', 'P', 'O'],
      ['Y', 'G', 'P', 'R'],
      ['Y', 'O', 'B', 'G'],
      ['Y', 'O', 'B', 'R'],
      ['Y', 'O', 'B', 'P'],
      ['Y', 'O', 'G', 'B'],
      ['Y', 'O', 'G', 'R'],
      ['Y', 'O', 'G', 'P'],
      ['Y', 'O', 'R', 'B'],
      ['Y', 'O', 'R', 'G'],
      ['Y', 'O', 'R', 'P'],
      ['Y', 'O', 'P', 'B'],
      ['Y', 'O', 'P', 'G'],
      ['Y', 'O', 'P', 'R'],
      ['Y', 'R', 'B', 'G'],
      ['Y', 'R', 'B', 'O'],
      ['Y', 'R', 'B', 'P'],
      ['Y', 'R', 'G', 'B'],
      ['Y', 'R', 'G', 'O'],
      ['Y', 'R', 'G', 'P'],
      ['Y', 'R', 'O', 'B'],
      ['Y', 'R', 'O', 'G'],
      ['Y', 'R', 'O', 'P'],
      ['Y', 'R', 'P', 'B'],
      ['Y', 'R', 'P', 'G'],
      ['Y', 'R', 'P', 'O'],
      ['Y', 'P', 'B', 'G'],
      ['Y', 'P', 'B', 'O'],
      ['Y', 'P', 'B', 'R'],
      ['Y', 'P', 'G', 'B'],
      ['Y', 'P', 'G', 'O'],
      ['Y', 'P', 'G', 'R'],
      ['Y', 'P', 'O', 'B'],
      ['Y', 'P', 'O', 'G'],
      ['Y', 'P', 'O', 'R'],
      ['Y', 'P', 'R', 'B'],
      ['Y', 'P', 'R', 'G'],
      ['Y', 'P', 'R', 'O'],
      ['P', 'B', 'G', 'O'],
      ['P', 'B', 'G', 'R'],
      ['P', 'B', 'G', 'Y'],
      ['P', 'B', 'O', 'G'],
      ['P', 'B', 'O', 'R'],
      ['P', 'B', 'O', 'Y'],
      ['P', 'B', 'R', 'G'],
      ['P', 'B', 'R', 'O'],
      ['P', 'B', 'R', 'Y'],
      ['P', 'B', 'Y', 'G'],
      ['P', 'B', 'Y', 'O'],
      ['P', 'B', 'Y', 'R'],
      ['P', 'G', 'B', 'O'],
      ['P', 'G', 'B', 'R'],
      ['P', 'G', 'B', 'Y'],
      ['P', 'G', 'O', 'B'],
      ['P', 'G', 'O', 'R'],
      ['P', 'G', 'O', 'Y'],
      ['P', 'G', 'R', 'B'],
      ['P', 'G', 'R', 'O'],
      ['P', 'G', 'R', 'Y'],
      ['P', 'G', 'Y', 'B'],
      ['P', 'G', 'Y', 'O'],
      ['P', 'G', 'Y', 'R'],
      ['P', 'O', 'B', 'G'],
      ['P', 'O', 'B', 'R'],
      ['P', 'O', 'B', 'Y'],
      ['P', 'O', 'G', 'B'],
      ['P', 'O', 'G', 'R'],
      ['P', 'O', 'G', 'Y'],
      ['P', 'O', 'R', 'B'],
      ['P', 'O', 'R', 'G'],
      ['P', 'O', 'R', 'Y'],
      ['P', 'O', 'Y', 'B'],
      ['P', 'O', 'Y', 'G'],
      ['P', 'O', 'Y', 'R'],
      ['P', 'R', 'B', 'G'],
      ['P', 'R', 'B', 'O'],
      ['P', 'R', 'B', 'Y'],
      ['P', 'R', 'G', 'B'],
      ['P', 'R', 'G', 'O'],
      ['P', 'R', 'G', 'Y'],
      ['P', 'R', 'O', 'B'],
      ['P', 'R', 'O', 'G'],
      ['P', 'R', 'O', 'Y'],
      ['P', 'R', 'Y', 'B'],
      ['P', 'R', 'Y', 'G'],
      ['P', 'R', 'Y', 'O'],
      ['P', 'Y', 'B', 'G'],
      ['P', 'Y', 'B', 'O'],
      ['P', 'Y', 'B', 'R'],
      ['P', 'Y', 'G', 'B'],
      ['P', 'Y', 'G', 'O'],
      ['P', 'Y', 'G', 'R'],
      ['P', 'Y', 'O', 'B'],
      ['P', 'Y', 'O', 'G'],
      ['P', 'Y', 'O', 'R'],
      ['P', 'Y', 'R', 'B'],
      ['P', 'Y', 'R', 'G'],
      ['P', 'Y', 'R', 'O']] : List Code),
    (loopRun (honest s) 7 none S0 []).2.Nodup :=
  List.forall_mem_cons.mpr ⟨nodup_of_eq rs30 (by decide),
  List.forall_mem_cons.mpr ⟨nodup_of_eq rs31 (by decide),
  List.forall_mem_cons.mpr ⟨nodup_of_eq rs32 (by decide),
  List.forall_mem_cons.mpr ⟨nodup_of_eq rs33 (by decide),
  List.forall_mem_cons.mpr ⟨nodup_of_eq rs34 (by decide),
  List.forall_mem_cons.mpr ⟨nodup_of_eq rs35 (by decide),
  List.forall_mem_cons.mpr ⟨nodup_of_eq rs36 (by decide),
  List.forall_mem_cons.mpr ⟨nodup_of_eq rs37 (by decide),
  List.forall_mem_cons.mpr ⟨nodup_of_eq rs38 (by decide),
  List.forall_mem_cons.mpr ⟨nodup_of_eq rs39 (by decide),
  ntl4⟩⟩⟩⟩⟩⟩⟩⟩⟩⟩


lemma ntl2 : ∀ s ∈ ([['B', 'O', 'Y', 'P'],
      ['B', 'O', 'P', 'G'],
      ['B', 'O', 'P', 'R'],
      ['B', 'O', 'P', 'Y'],
      ['B', 'R', 'G', 'O'],
      ['B', 'R', 'G', 'Y'],
      ['B', 'R', 'G', 'P'],
      ['B', 'R', 'O', 'G'],
      ['B', 'R', 'O', 'Y'],
      ['B', 'R', 'O', 'P'],
      ['B', 'R', 'Y', 'G'],
      ['B', 'R', 'Y', 'O'],
      ['B', 'R', 'Y', 'P'],
      ['B', 'R', 'P', 'G'],
      ['B', 'R', 'P', 'O'],
      ['B', 'R', 'P', 'Y'],
      ['B', 'Y', 'G', 'O'],
      ['B', 'Y', 'G', 'R'],
      ['B', 'Y', 'G', 'P'],
      ['B', 'Y', 'O', 'G'],
      ['B', 'Y', 'O', 'R'],
      ['B', 'Y', 'O', 'P'],
      ['B', 'Y', 'R', 'G'],
      ['B', 'Y', 'R', 'O'],
      ['B', 'Y', 'R', 'P'],
      ['B', 'Y', 'P', 'G'],
      ['B', 'Y', 'P', 'O'],
      ['B', 'Y', 'P', 'R'],
      ['B', 'P', 'G', 'O'],
      ['B', 'P', 'G', 'R'],
      ['B', 'P', 'G', 'Y'],
      ['B', 'P', 'O', 'G'],
      ['B', 'P', 'O', 'R'],
      ['B', 'P', 'O', 'Y'],
      ['B', 'P', 'R', 'G'],
      ['B', 'P', 'R', 'O'],
      ['B', 'P', 'R', 'Y'],
      ['B', 'P', 'Y', 'G'],
      ['B', 'P', 'Y', 'O'],
      ['B', 'P', 'Y', 'R'],
      ['G', 'B', 'O', 'R'],
      ['G', 'B', 'O', 'Y'],
      ['G', 'B', 'O', 'P'],
      ['G', 'B', 'R', 'O'],
      ['G', 'B', 'R', 'Y'],
      ['G', 'B', 'R', 'P'],
      ['G', 'B', 'Y', 'O'],
      ['G', 'B', 'Y', 'R'],
      ['G', 'B', 'Y', 'P'],
      ['G', 'B', 'P', 'O'],
      ['G', 'B', 'P', 'R'],
      ['G', 'B', 'P', 'Y'],
      ['G', 'O', 'B', 'R'],
      ['G', 'O', 'B', 'Y'],
      ['G', 'O', 'B', 'P'],
      ['G', 'O', 'R', 'B'],
      ['G', 'O', 'R', 'Y'],
      ['G', 'O', 'R', 'P'],
      ['G', 'O', 'Y', 'B'],
      ['G', 'O', 'Y', 'R'],
      ['G', 'O', 'Y', 'P'],
      ['G', 'O', 'P', 'B'],
      ['G', 'O', 'P', 'R'],
      ['G', 'O', 'P', 'Y'],
      ['G', 'R', 'B', 'O'],
      ['G', 'R', 'B', 'Y'],
      ['G', 'R', 'B', 'P'],
      ['G', 'R', 'O', 'B'],
      ['G', 'R', 'O', 'Y'],
      ['G', 'R', 'O', 'P'],
      ['G', 'R', 'Y', 'B'],
      ['G', 'R', 'Y', 'O'],
      ['G', 'R', 'Y', 'P'],
      ['G', 'R', 'P', 'B'],
      ['G', 'R', 'P', 'O'],
      ['G', 'R', 'P', 'Y'],
      ['G', 'Y', 'B', 'O'],
      ['G', 'Y', 'B', 'R'],
      ['G', 'Y', 'B', 'P'],
      ['G', 'Y', 'O', 'B'],
      ['G', 'Y', 'O', 'R'],
      ['G', 'Y', 'O', 'P'],
      ['G', 'Y', 'R', 'B'],
      ['G', 'Y', 'R', 'O'],
      ['G', 'Y', 'R', 'P'],
      ['G', 'Y', 'P', 'B'],
      ['G', 'Y', 'P', 'O'],
      ['G', 'Y', 'P', 'R'],
      ['G', 'P', 'B', 'O'],
      ['G', 'P', 'B', 'R'],
      ['G', 'P', 'B', 'Y'],
      ['G', 'P', 'O', 'B'],
      ['G', 'P', 'O', 'R'],
      ['G', 'P', 'O', 'Y'],
      ['G', 'P', 'R', 'B'],
      ['G', 'P', 'R', 'O'],
      ['G', 'P', 'R', 'Y'],
      ['G', 'P', 'Y', 'B'],
      ['G', 'P', 'Y', 'O'],
      ['G', 'P', 'Y', 'R'],
      ['O', 'B', 'G', 'R'],
      ['O', 'B', 'G', 'Y'],
      ['O', 'B', 'G', 'P'],
      ['O', 'B', 'R', 'G'],
      ['O', 'B', 'R', 'Y'],
      ['O', 'B', 'R', 'P'],
      ['O', 'B', 'Y', 'G'],
      ['O', 'B', 'Y', 'R'],
      ['O', 'B', 'Y', 'P'],
      ['O', 'B', 'P', 'G'],
      ['O', 'B', 'P', 'R'],
      ['O', 'B', 'P', 'Y'],
      ['O', 'G', 'B', 'R'],
      ['O', 'G', 'B', 'Y'],
      ['O', 'G', 'B', 'P'],
      ['O', 'G', 'R', 'B'],
      ['O', 'G', 'R', 'Y'],
      ['O', 'G', 'R', 'P'],
      ['O', 'G', 'Y', 'B'],
      ['O', 'G', 'Y', 'R'],
      ['O', 'G', 'Y', 'P'],
      ['O', 'G', 'P', 'B'],
      ['O', 'G', 'P', 'R'],
      ['O', 'G', 'P', 'Y'],
      ['O', 'R', 'B', 'G'],
      ['O', 'R', 'B', 'Y'],
      ['O', 'R', 'B', 'P'],
      ['O', 'R', 'G', 'B'],
      ['O', 'R', 'G', 'Y'],
      ['O', 'R', 'G', 'P'],
      ['O', 'R', 'Y', 'B'],
      ['O', 'R', 'Y', 'G'],
      ['O', 'R', 'Y', 'P'],
      ['O', 'R', 'P', 'B'],
      ['O', 'R', 'P', 'G'],
      ['O', 'R', 'P', 'Y'],
      ['O', 'Y', 'B', 'G'],
      ['O', 'Y', 'B', 'R'],
      ['O', 'Y', 'B', 'P'],
      ['O', 'Y', 'G', 'B'],
      ['O', 'Y', 'G', 'R'],
      ['O', 'Y', 'G', 'P'],
      ['O', 'Y', 'R', 'B'],
      ['O', 'Y', 'R', 'G'],
      ['O', 'Y', 'R', 'P'],
      ['O', 'Y', 'P', 'B'],
      ['O', 'Y', 'P', 'G'],
      ['O', 'Y', 'P', 'R'],
      ['O', 'P', 'B', 'G'],
      ['O', 'P', 'B', 'R'],
      ['O', 'P', 'B', 'Y'],
      ['O', 'P', 'G', 'B'],
      ['O', 'P', 'G', 'R'],
      ['O', 'P', 'G', 'Y'],
      ['O', 'P', 'R', 'B'],
      ['O', 'P', 'R', 'G'],
      ['O', 'P', 'R', 'Y'],
      ['O', 'P', 'Y', 'B'],
      ['O', 'P', 'Y', 'G'],
      ['O', 'P', 'Y', 'R'],
      ['R', 'B', 'G', 'O'],
      ['R', 'B', 'G', 'Y'],
      ['R', 'B', 'G', 'P'],
      ['R', 'B', 'O', 'G'],
      ['R', 'B', 'O', 'Y'],
      ['R', 'B', 'O', 'P'],
      ['R', 'B', 'Y', 'G'],
      ['R', 'B', 'Y', 'O'],
      ['R', 'B', 'Y', 'P'],
      ['R', 'B', 'P', 'G'],
      ['R', 'B', 'P', 'O'],
      ['R', 'B', 'P', 'Y'],
      ['R', 'G', 'B', 'O'],
      ['R', 'G', 'B', 'Y'],
      ['R', 'G', 'B', 'P'],
      ['R', 'G', 'O', 'B'],
      ['R', 'G', 'O', 'Y'],
      ['R', 'G', 'O', 'P'],
      ['R', 'G', 'Y', 'B'],
      ['R', 'G', 'Y', 'O'],
      ['R', 'G', 'Y', 'P'],
      ['R', 'G', 'P', 'B'],
      ['R', 'G', 'P', 'O'],
      ['R', 'G', 'P', 'Y'],
      ['R', 'O', 'B', 'G'],
      ['R', 'O', 'B', 'Y'],
      ['R', 'O', 'B', 'P'],
      ['R', 'O', 'G', 'B'],
      ['R', 'O', 'G', 'Y'],
      ['R', 'O', 'G', 'P'],
      ['R', 'O', 'Y', 'B'],
      ['R', 'O', 'Y', 'G'],
      ['R', 'O', 'Y', 'P'],
      ['R', 'O', 'P', 'B'],
      ['R', 'O', 'P', 'G'],
      ['R', 'O', 'P', 'Y'],
      ['R', 'Y', 'B', 'G'],
      ['R', 'Y', 'B', 'O'],
      ['R', 'Y', 'B', 'P'],
      ['R', 'Y', 'G', 'B'],
      ['R', 'Y', 'G', 'O'],
      ['R', 'Y', 'G', 'P'],
      ['R', 'Y', 'O', 'B'],
      ['R', 'Y', 'O', 'G'],
      ['R', 'Y', 'O', 'P'],
      ['R', 'Y', 'P', 'B'],
      ['R', 'Y', 'P', 'G'],
      ['R', 'Y', 'P', 'O'],
      ['R', 'P', 'B', 'G'],
      ['R', 'P', 'B', 'O'],
      ['R', 'P', 'B', 'Y'],
      ['R', 'P', 'G', 'B'],
      ['R', 'P', 'G', 'O'],
      ['R', 'P', 'G', 'Y'],
      ['R', 'P', 'O', 'B'],
      ['R', 'P', 'O', 'G'],
      ['R', 'P', 'O', 'Y'],
      ['R', 'P', 'Y', 'B'],
      ['R', 'P', 'Y', 'G'],
      ['R', 'P', 'Y', 'O'],
      ['Y', 'B', 'G', 'O'],
      ['Y', 'B', 'G', 'R'],
      ['Y', 'B', 'G', 'P'],
      ['Y', 'B', 'O', 'G'],
      ['Y', 'B', 'O', 'R'],
      ['Y', 'B', 'O', 'P'],
      ['Y', 'B', 'R', 'G'],
      ['Y', 'B', 'R', 'O'],
      ['Y', 'B', 'R', 'P'],
      ['Y', 'B', 'P', 'G'],
      ['Y', 'B', 'P', 'O'],
      ['Y', 'B', 'P', 'R'],
      ['Y', 'G', 'B', 'O'],
      ['Y', 'G', 'B', 'R'],
      ['Y', 'G', 'B', 'P'],
      ['Y', 'G', 'O', 'B'],
      ['Y', 'G', 'O', 'R'],
      ['Y', 'G', 'O', 'P'],
      ['Y', 'G', 'R', 'B'],
      ['Y', 'G', 'R', 'O'],
      ['Y', 'G', 'R', 'P'],
      ['Y', 'G', 'P', 'B'],
      ['Y', 'G', 'P', 'O'],
      ['Y', 'G', 'P', 'R'],
      ['Y', 'O', 'B', 'G'],
      ['Y', 'O', 'B', 'R'],
      ['Y', 'O', 'B', 'P'],
      ['Y', 'O', 'G', 'B'],
      ['Y', 'O', 'G', 'R'],
      ['Y', 'O', 'G', 'P'],
      ['Y', 'O', 'R', 'B'],
      ['Y', 'O', 'R', 'G'],
      ['Y', 'O', 'R', 'P'],
      ['Y', 'O', 'P', 'B'],
      ['Y', 'O', 'P', 'G'],
      ['Y', 'O', 'P', 'R'],
      ['Y', 'R', 'B', 'G'],
      ['Y', 'R', 'B', 'O'],
      ['Y', 'R', 'B', 'P'],
      ['Y', 'R', 'G', 'B'],
      ['Y', 'R', 'G', 'O'],
      ['Y', 'R', 'G', 'P'],
      ['Y', 'R', 'O', 'B'],
      ['Y', 'R', 'O', 'G'],
      ['Y', 'R', 'O', 'P'],
      ['Y', 'R', 'P', 'B'],
      ['Y', 'R', 'P', 'G'],
      ['Y', 'R', 'P', 'O'],
      ['Y', 'P', 'B', 'G'],
      ['Y', 'P', 'B', 'O'],
      ['Y', 'P', 'B', 'R'],
      ['Y', 'P', 'G', 'B'],
      ['Y', 'P', 'G', 'O'],
      ['Y', 'P', 'G', 'R'],
      ['Y', 'P', 'O', 'B'],
      ['Y', 'P', 'O', 'G'],
      ['Y', 'P', 'O', 'R'],
      ['Y', 'P', 'R', 'B'],
      ['Y', 'P', 'R', 'G'],
      ['Y', 'P', 'R', 'O'],
      ['P', 'B', 'G', 'O'],
      ['P', 'B', 'G', 'R'],
      ['P', 'B', 'G', 'Y'],
      ['P', 'B', 'O', 'G'],
      ['P', 'B', 'O', 'R'],
      ['P', 'B', 'O', 'Y'],
      ['P', 'B', 'R', 'G'],
      ['P', 'B', 'R', 'O'],
      ['P', 'B', 'R', 'Y'],
      ['P', 'B', 'Y', 'G'],
      ['P', 'B', 'Y', 'O'],
      ['P', 'B', 'Y', 'R'],
      ['P', 'G', 'B', 'O'],
      ['P', 'G', 'B', 'R'],
      ['P', 'G', 'B', 'Y'],
      ['P', 'G', 'O', 'B'],
      ['P', 'G', 'O', 'R'],
      ['P', 'G', 'O', 'Y'],
      ['P', 'G', 'R', 'B'],
      ['P', 'G', 'R', 'O'],
      ['P', 'G', 'R', 'Y'],
      ['P', 'G', 'Y', 'B'],
      ['P', 'G', 'Y', 'O'],
      ['P', 'G', 'Y', 'R'],
      ['P', 'O', 'B', 'G'],
      ['P', 'O', 'B', 'R'],
      ['P', 'O', 'B', 'Y'],
      ['P', 'O', 'G', 'B'],
      ['P', 'O', 'G', 'R'],
      ['P', 'O', 'G', 'Y'],
      ['P', 'O', 'R', 'B'],
      ['P', 'O', 'R', 'G'],
      ['P', 'O', 'R', 'Y'],
      ['P', 'O', 'Y', 'B'],
      ['P', 'O', 'Y', 'G'],
      ['P', 'O', 'Y', 'R'],
      ['P', 'R', 'B', 'G'],
      ['P', 'R', 'B', 'O'],
      ['P', 'R', 'B', 'Y'],
      ['P', 'R', 'G', 'B'],
      ['P', 'R', 'G', 'O'],
      ['P', 'R', 'G', 'Y'],
      ['P', 'R', 'O', 'B'],
      ['P', 'R', 'O', 'G'],
      ['P', 'R', 'O', 'Y'],
      ['P', 'R', 'Y', 'B'],
      ['P', 'R', 'Y', 'G'],
      ['P', 'R', 'Y', 'O'],
      ['P', 'Y', 'B', 'G'],
      ['P', 'Y', 'B', 'O'],
      ['P', 'Y', 'B', 'R'],
      ['P', 'Y', 'G', 'B'],
      ['P', 'Y', 'G', 'O'],
      ['P', 'Y', 'G', 'R'],
      ['P', 'Y', 'O', 'B'],
      ['P', 'Y', 'O', 'G'],
      ['P', 'Y', 'O', 'R'],
      ['P', 'Y', 'R', 'B'],
      ['P', 'Y', 'R', 'G'],
      ['P', 'Y', 'R', 'O']] : List Code),
    (loopRun (honest s) 7 none S0 []).2.Nodup :=
  List.forall_mem_cons.mpr ⟨nodup_of_eq rs20 (by decide),
  List.forall_mem_cons.mpr ⟨nodup_of_eq rs21 (by decide),
  List.forall_mem_cons.mpr ⟨nodup_of_eq rs22 (by decide),
  List.forall_mem_cons.mpr ⟨nodup_of_eq rs23 (by decide),
  List.forall_mem_cons.mpr ⟨nodup_of_eq rs24 (by decide),
  List.forall_mem_cons.mpr ⟨nodup_of_eq rs25 (by decide),
  List.forall_mem_cons.mpr ⟨nodup_of_eq rs26 (by decide),
  List.forall_mem_cons.mpr ⟨nodup_of_eq rs27 (by decide),
  List.forall_mem_cons.mpr ⟨nodup_of_eq rs28 (by decide),
  List.forall_mem_cons.mpr ⟨nodup_of_eq rs29 (by decide),
  ntl3⟩⟩⟩⟩⟩⟩⟩⟩⟩⟩


lemma ntl1 : ∀ s ∈ ([['B', 'G', 'P', 'R'],
      ['B', 'G', 'P', 'Y'],
      ['B', 'O', 'G', 'R'],
      ['B', 'O', 'G', 'Y'],
      ['B', 'O', 'G', 'P'],
      ['B', 'O', 'R', 'G'],
      ['B', 'O', 'R', 'Y'],
      ['B', 'O', 'R', 'P'],
      ['B', 'O', 'Y', 'G'],
      ['B', 'O', 'Y', 'R'],
      ['B', 'O', 'Y', 'P'],
      ['B', 'O', 'P', 'G'],
      ['B', 'O', 'P', 'R'],
      ['B', 'O', 'P', 'Y'],
      ['B', 'R', 'G', 'O'],
      ['B', 'R', 'G', 'Y'],
      ['B', 'R', 'G', 'P'],
      ['B', 'R', 'O', 'G'],
      ['B', 'R', 'O', 'Y'],
      ['B', 'R', 'O', 'P'],
      ['B', 'R', 'Y', 'G'],
      ['B', 'R', 'Y', 'O'],
      ['B', 'R', 'Y', 'P'],
      ['B', 'R', 'P', 'G'],
      ['B', 'R', 'P', 'O'],
      ['B', 'R', 'P', 'Y'],
      ['B', 'Y', 'G', 'O'],
      ['B', 'Y', 'G', 'R'],
      ['B', 'Y', 'G', 'P'],
      ['B', 'Y', 'O', 'G'],
      ['B', 'Y', 'O', 'R'],
      ['B', 'Y', 'O', 'P'],
      ['B', 'Y', 'R', 'G'],
      ['B', 'Y', 'R', 'O'],
      ['B', 'Y', 'R', 'P'],
      ['B', 'Y', 'P', 'G'],
      ['B', 'Y', 'P', 'O'],
      ['B', 'Y', 'P', 'R'],
      ['B', 'P', 'G', 'O'],
      ['B', 'P', 'G', 'R'],
      ['B', 'P', 'G', 'Y'],
      ['B', 'P', 'O', 'G'],
      ['B', 'P', 'O', 'R'],
      ['B', 'P', 'O', 'Y'],
      ['B', 'P', 'R', 'G'],
      ['B', 'P', 'R', 'O'],
      ['B', 'P', 'R', 'Y'],
      ['B', 'P', 'Y', 'G'],
      ['B', 'P', 'Y', 'O'],
      ['B', 'P', 'Y', 'R'],
      ['G', 'B', 'O', 'R'],
      ['G', 'B', 'O', 'Y'],
      ['G', 'B', 'O', 'P'],
      ['G', 'B', 'R', 'O'],
      ['G', 'B', 'R', 'Y'],
      ['G', 'B', 'R', 'P'],
      ['G', 'B', 'Y', 'O'],
      ['G', 'B', 'Y', 'R'],
      ['G', 'B', 'Y', 'P'],
      ['G', 'B', 'P', 'O'],
      ['G', 'B', 'P', 'R'],
      ['G', 'B', 'P', 'Y'],
      ['G', 'O', 'B', 'R'],
      ['G', 'O', 'B', 'Y'],
      ['G', 'O', 'B', 'P'],
      ['G', 'O', 'R', 'B'],
      ['G', 'O', 'R', 'Y'],
      ['G', 'O', 'R', 'P'],
      ['G', 'O', 'Y', 'B'],
      ['G', 'O', 'Y', 'R'],
      ['G', 'O', 'Y', 'P'],
      ['G', 'O', 'P', 'B'],
      ['G', 'O', 'P', 'R'],
      ['G', 'O', 'P', 'Y'],
      ['G', 'R', 'B', 'O'],
      ['G', 'R', 'B', 'Y'],
      ['G', 'R', 'B', 'P'],
      ['G', 'R', 'O', 'B'],
      ['G', 'R', 'O', 'Y'],
      ['G', 'R', 'O', 'P'],
      ['G', 'R', 'Y', 'B'],
      ['G', 'R', 'Y', 'O'],
      ['G', 'R', 'Y', 'P'],
      ['G', 'R', 'P', 'B'],
      ['G', 'R', 'P', 'O'],
      ['G', 'R', 'P', 'Y'],
      ['G', 'Y', 'B', 'O'],
      ['G', 'Y', 'B', 'R'],
      ['G', 'Y', 'B', 'P'],
      ['G', 'Y', 'O', 'B'],
      ['G', 'Y', 'O', 'R'],
      ['G', 'Y', 'O', 'P'],
      ['G', 'Y', 'R', 'B'],
      ['G', 'Y', 'R', 'O'],
      ['G', 'Y', 'R', 'P'],
      ['G', 'Y', 'P', 'B'],
      ['G', 'Y', 'P', 'O'],
      ['G', 'Y', 'P', 'R'],
      ['G', 'P', 'B', 'O'],
      ['G', 'P', 'B', 'R'],
      ['G', 'P', 'B', 'Y'],
      ['G', 'P', 'O', 'B'],
      ['G', 'P', 'O', 'R'],
      ['G', 'P', 'O', 'Y'],
      ['G', 'P', 'R', 'B'],
      ['G', 'P', 'R', 'O'],
      ['G', 'P', 'R', 'Y'],
      ['G', 'P', 'Y', 'B'],
      ['G', 'P', 'Y', 'O'],
      ['G', 'P', 'Y', 'R'],
      ['O', 'B', 'G', 'R'],
      ['O', 'B', 'G', 'Y'],
      ['O', 'B', 'G', 'P'],
      ['O', 'B', 'R', 'G'],
      ['O', 'B', 'R', 'Y'],
      ['O', 'B', 'R', 'P'],
      ['O', 'B', 'Y', 'G'],
      ['O', 'B', 'Y', 'R'],
      ['O', 'B', 'Y', 'P'],
      ['O', 'B', 'P', 'G'],
      ['O', 'B', 'P', 'R'],
      ['O', 'B', 'P', 'Y'],
      ['O', 'G', 'B', 'R'],
      ['O', 'G', 'B', 'Y'],
      ['O', 'G', 'B', 'P'],
      ['O', 'G', 'R', 'B'],
      ['O', 'G', 'R', 'Y'],
      ['O', 'G', 'R', 'P'],
      ['O', 'G', 'Y', 'B'],
      ['O', 'G', 'Y', 'R'],
      ['O', 'G', 'Y', 'P'],
      ['O', 'G', 'P', 'B'],
      ['O', 'G', 'P', 'R'],
      ['O', 'G', 'P', 'Y'],
      ['O', 'R', 'B', 'G'],
      ['O', 'R', 'B', 'Y'],
      ['O', 'R', 'B', 'P'],
      ['O', 'R', 'G', 'B'],
      ['O', 'R', 'G', 'Y'],
      ['O', 'R', 'G', 'P'],
      ['O', 'R', 'Y', 'B'],
      ['O', 'R', 'Y', 'G'],
      ['O', 'R', 'Y', 'P'],
      ['O', 'R', 'P', 'B'],
      ['O', 'R', 'P', 'G'],
      ['O', 'R', 'P', 'Y'],
      ['O', 'Y', 'B', 'G'],
      ['O', 'Y', 'B', 'R'],
      ['O', 'Y', 'B', 'P'],
      ['O', 'Y', 'G', 'B'],
      ['O', 'Y', 'G', 'R'],
      ['O', 'Y', 'G', 'P'],
      ['O', 'Y', 'R', 'B'],
      ['O', 'Y', 'R', 'G'],
      ['O', 'Y', 'R', 'P'],
      ['O', 'Y', 'P', 'B'],
      ['O', 'Y', 'P', 'G'],
      ['O', 'Y', 'P', 'R'],
      ['O', 'P', 'B', 'G'],
      ['O', 'P', 'B', 'R'],
      ['O', 'P', 'B', 'Y'],
      ['O', 'P', 'G', 'B'],
      ['O', 'P', 'G', 'R'],
      ['O', 'P', 'G', 'Y'],
      ['O', 'P', 'R', 'B'],
      ['O', 'P', 'R', 'G'],
      ['O', 'P', 'R', 'Y'],
      ['O', 'P', 'Y', 'B'],
      ['O', 'P', 'Y', 'G'],
      ['O', 'P', 'Y', 'R'],
      ['R', 'B', 'G', 'O'],
      ['R', 'B', 'G', 'Y'],
      ['R', 'B', 'G', 'P'],
      ['R', 'B', 'O', 'G'],
      ['R', 'B', 'O', 'Y'],
      ['R', 'B', 'O', 'P'],
      ['R', 'B', 'Y', 'G'],
      ['R', 'B', 'Y', 'O'],
      ['R', 'B', 'Y', 'P'],
      ['R', 'B', 'P', 'G'],
      ['R', 'B', 'P', 'O'],
      ['R', 'B', 'P', 'Y'],
      ['R', 'G', 'B', 'O'],
      ['R', 'G', 'B', 'Y'],
      ['R', 'G', 'B', 'P'],
      ['R', 'G', 'O', 'B'],
      ['R', 'G', 'O', 'Y'],
      ['R', 'G', 'O', 'P'],
      ['R', 'G', 'Y', 'B'],
      ['R', 'G', 'Y', 'O'],
      ['R', 'G', 'Y', 'P'],
      ['R', 'G', 'P', 'B'],
      ['R', 'G', 'P', 'O'],
      ['R', 'G', 'P', 'Y'],
      ['R', 'O', 'B', 'G'],
      ['R', 'O', 'B', 'Y'],
      ['R', 'O', 'B', 'P'],
      ['R', 'O', 'G', 'B'],
      ['R', 'O', 'G', 'Y'],
      ['R', 'O', 'G', 'P'],
      ['R', 'O', 'Y', 'B'],
      ['R', 'O', 'Y', 'G'],
      ['R', 'O', 'Y', 'P'],
      ['R', 'O', 'P', 'B'],
      ['R', 'O', 'P', 'G'],
      ['R', 'O', 'P', 'Y'],
      ['R', 'Y', 'B', 'G'],
      ['R', 'Y', 'B', 'O'],
      ['R', 'Y', 'B', 'P'],
      ['R', 'Y', 'G', 'B'],
      ['R', 'Y', 'G', 'O'],
      ['R', 'Y', 'G', 'P'],
      ['R', 'Y', 'O', 'B'],
      ['R', 'Y', 'O', 'G'],
      ['R', 'Y', 'O', 'P'],
      ['R', 'Y', 'P', 'B'],
      ['R', 'Y', 'P', 'G'],
      ['R', 'Y', 'P', 'O'],
      ['R', 'P', 'B', 'G'],
      ['R', 'P', 'B', 'O'],
      ['R', 'P', 'B', 'Y'],
      ['R', 'P', 'G', 'B'],
      ['R', 'P', 'G', 'O'],
      ['R', 'P', 'G', 'Y'],
      ['R', 'P', 'O', 'B'],
      ['R', 'P', 'O', 'G'],
      ['R', 'P', 'O', 'Y'],
      ['R', 'P', 'Y', 'B'],
      ['R', 'P', 'Y', 'G'],
      ['R', 'P', 'Y', 'O'],
      ['Y', 'B', 'G', 'O'],
      ['Y', 'B', 'G', 'R'],
      ['Y', 'B', 'G', 'P'],
      ['Y', 'B', 'O', 'G'],
      ['Y', 'B', 'O', 'R'],
      ['Y', 'B', 'O', 'P'],
      ['Y', 'B', 'R', 'G'],
      ['Y', 'B', 'R', 'O'],
      ['Y', 'B', 'R', 'P'],
      ['Y', 'B', 'P', 'G'],
      ['Y', 'B', 'P', 'O'],
      ['Y', 'B', 'P', 'R'],
      ['Y', 'G', 'B', 'O'],
      ['Y', 'G', 'B', 'R'],
      ['Y', 'G', 'B', 'P'],
      ['Y', 'G', 'O', 'B'],
      ['Y', 'G', 'O', 'R'],
      ['Y', 'G', 'O', 'P'],
      ['Y', 'G', 'R', 'B'],
      ['Y', 'G', 'R', 'O'],
      ['Y', 'G', 'R', 'P'],
      ['Y', 'G', 'P', 'B'],
      ['Y', 'G', 'P', 'O'],
      ['Y', 'G', 'P', 'R'],
      ['Y', 'O', 'B', 'G'],
      ['Y', 'O', 'B', 'R'],
      ['Y', 'O', 'B', 'P'],
      ['Y', 'O', 'G', 'B'],
      ['Y', 'O', 'G', 'R'],
      ['Y', 'O', 'G', 'P'],
      ['Y', 'O', 'R', 'B'],
      ['Y', 'O', 'R', 'G'],
      ['Y', 'O', 'R', 'P'],
      ['Y', 'O', 'P', 'B'],
      ['Y', 'O', 'P', 'G'],
      ['Y', 'O', 'P', 'R'],
      ['Y', 'R', 'B', 'G'],
      ['Y', 'R', 'B', 'O'],
      ['Y', 'R', 'B', 'P'],
      ['Y', 'R', 'G', 'B'],
      ['Y', 'R', 'G', 'O'],
      ['Y', 'R', 'G', 'P'],
      ['Y', 'R', 'O', 'B'],
      ['Y', 'R', 'O', 'G'],
      ['Y', 'R', 'O', 'P'],
      ['Y', 'R', 'P', 'B'],
      ['Y', 'R', 'P', 'G'],
      ['Y', 'R', 'P', 'O'],
      ['Y', 'P', 'B', 'G'],
      ['Y', 'P', 'B', 'O'],
      ['Y', 'P', 'B', 'R'],
      ['Y', 'P', 'G', 'B'],
      ['Y', 'P', 'G', 'O'],
      ['Y', 'P', 'G', 'R'],
      ['Y', 'P', 'O', 'B'],
      ['Y', 'P', 'O', 'G'],
      ['Y', 'P', 'O', 'R'],
      ['Y', 'P', 'R', 'B'],
      ['Y', 'P', 'R', 'G'],
      ['Y', 'P', 'R', 'O'],
      ['P', 'B', 'G', 'O'],
      ['P', 'B', 'G', 'R'],
      ['P', 'B', 'G', 'Y'],
      ['P', 'B', 'O', 'G'],
      ['P', 'B', 'O', 'R'],
      ['P', 'B', 'O', 'Y'],
      ['P', 'B', 'R', 'G'],
      ['P', 'B', 'R', 'O'],
      ['P', 'B', 'R', 'Y'],
      ['P', 'B', 'Y', 'G'],
      ['P', 'B', 'Y', 'O'],
      ['P', 'B', 'Y', 'R'],
      ['P', 'G', 'B', 'O'],
      ['P', 'G', 'B', 'R'],
      ['P', 'G', 'B', 'Y'],
      ['P', 'G', 'O', 'B'],
      ['P', 'G', 'O', 'R'],
      ['P', 'G', 'O', 'Y'],
      ['P', 'G', 'R', 'B'],
      ['P', 'G', 'R', 'O'],
      ['P', 'G', 'R', 'Y'],
      ['P', 'G', 'Y', 'B'],
      ['P', 'G', 'Y', 'O'],
      ['P', 'G', 'Y', 'R'],
      ['P', 'O', 'B', 'G'],
      ['P', 'O', 'B', 'R'],
      ['P', 'O', 'B', 'Y'],
      ['P', 'O', 'G', 'B'],
      ['P', 'O', 'G', 'R'],
      ['P', 'O', 'G', 'Y'],
      ['P', 'O', 'R', 'B'],
      ['P', 'O', 'R', 'G'],
      ['P', 'O', 'R', 'Y'],
      ['P', 'O', 'Y', 'B'],
      ['P', 'O', 'Y', 'G'],
      ['P', 'O', 'Y', 'R'],
      ['P', 'R', 'B', 'G'],
      ['P', 'R', 'B', 'O'],
      ['P', 'R', 'B', 'Y'],
      ['P', 'R', 'G', 'B'],
      ['P', 'R', 'G', 'O'],
      ['P', 'R', 'G', 'Y'],
      ['P', 'R', 'O', 'B'],
      ['P', 'R', 'O', 'G'],
      ['P', 'R', 'O', 'Y'],
      ['P', 'R', 'Y', 'B'],
      ['P', 'R', 'Y', 'G'],
      ['P', 'R', 'Y', 'O'],
      ['P', 'Y', 'B', 'G'],
      ['P', 'Y', 'B', 'O'],
      ['P', 'Y', 'B', 'R'],
      ['P', 'Y', 'G', 'B'],
      ['P', 'Y', 'G', 'O'],
      ['P', 'Y', 'G', 'R'],
      ['P', 'Y', 'O', 'B'],
      ['P', 'Y', 'O', 'G'],
      ['P', 'Y', 'O', 'R'],
      ['P', 'Y', 'R', 'B'],
      ['P', 'Y', 'R', 'G'],
      ['P', 'Y', 'R', 'O']] : List Code),
    (loopRun (honest s) 7 none S0 []).2.Nodup :=
  List.forall_mem_cons.mpr ⟨nodup_of_eq rs10 (by decide),
  List.forall_mem_cons.mpr ⟨nodup_of_eq rs11 (by decide),
  List.forall_mem_cons.mpr ⟨nodup_of_eq rs12 (by decide),
  List.forall_mem_cons.mpr ⟨nodup_of_eq rs13 (by decide),
  List.forall_mem_cons.mpr ⟨nodup_of_eq rs14 (by decide),
  List.forall_mem_cons.mpr ⟨nodup_of_eq rs15 (by decide),
  List.forall_mem_cons.mpr ⟨nodup_of_eq rs16 (by decide),
  List.forall_mem_cons.mpr ⟨nodup_of_eq rs17 (by decide),
  List.forall_mem_cons.mpr ⟨nodup_of_eq rs18 (by decide),
  List.forall_mem_cons.mpr ⟨nodup_of_eq rs19 (by decide),
  ntl2⟩⟩⟩⟩⟩⟩⟩⟩⟩⟩


lemma ntl0 : ∀ s ∈ S0,
    (loopRun (honest s) 7 none S0 []).2.Nodup :=
  List.forall_mem_cons.mpr ⟨nodup_of_eq rs0 (by decide),
  List.forall_mem_cons.mpr ⟨nodup_of_eq rs1 (by decide),
  List.forall_mem_cons.mpr ⟨nodup_of_eq rs2 (by decide),
  List.forall_mem_cons.mpr ⟨nodup_of_eq rs3 (by decide),
  List.forall_mem_cons.mpr ⟨nodup_of_eq rs4 (by decide),
  List.forall_mem_cons.mpr ⟨nodup_of_eq rs5 (by decide),
  List.forall_mem_cons.mpr ⟨nodup_of_eq rs6 (by decide),
  List.forall_mem_cons.mpr ⟨nodup_of_eq rs7 (by decide),
  List.forall_mem_cons.mpr ⟨nodup_of_eq rs8 (by decide),
  List.forall_mem_cons.mpr ⟨nodup_of_eq rs9 (by decide),
  ntl1⟩⟩⟩⟩⟩⟩⟩⟩⟩⟩

/-- C10 (amended): a guess never survives its own pare (its self-score
has four blacks), and a session of the solve loop against an honest
collaborator never issues the same guess twice.  (For an inconsistent
collaborator this can fail: an emptied pool makes `findNextGuess` return
the falsy empty string, which the next iteration re-defaults to the
already-issued first guess.) -/
theorem C10_no_repeated_guess :
    (∀ (S : List Code) (g : Code) (sc : Score), WellFormed g → sc ≠ ⟨0, 4⟩ →
      g ∉ parePossibilities S g sc) ∧
    (∀ s ∈ initializeSet,
      (loopRun (honest s) 7 none initializeSet []).2.Nodup) := by
  constructor
  · intro S g sc hgwf hsc hmem
    rw [mem_parePossibilities] at hmem
    have hcs := hmem.2
    rw [calculateScore_self, hgwf.1] at hcs
    refine hsc ?_
    rw [← hcs]
    simp
  · rw [initializeSet_eq_S0]
    exact ntl0

/-- Counterexample to C10 as stated: against a collaborator always
answering no whites and no blacks, the first pare empties the pool (every
code shares a color with the first guess), `findNextGuess` returns the
falsy empty string, and the next iteration re-defaults it to the first
guess — the same code is issued twice in one session. -/
theorem C10_counterexample :
    loopRun (fun _ => (⟨0, 0⟩ : Score)) 2 none initializeSet [] =
      (RunResult.fatal, [['B', 'G', 'O', 'R'], ['B', 'G', 'O', 'R']]) ∧
    ¬ ([['B', 'G', 'O', 'R'], ['B', 'G', 'O', 'R']] : List Code).Nodup := by
  constructor
  · rw [initializeSet_eq_S0, loopRun_none']
    conv_lhs => rw [show (2 : Nat) = 1 + 1 from rfl]
    rw [loopRun_go (fun _ => (⟨0, 0⟩ : Score)) 1 ['B', 'G', 'O', 'R'] S0 []
      (by decide) (by rw [← rlength_eq]; decide) (by decide) (by decide)]
    have hpare : parePossibilities S0 ['B', 'G', 'O', 'R'] (⟨0, 0⟩ : Score) = [] :=
      pare_node _ _ 0 0 _ S0_wf (by decide) (by decide) rfl
    rw [hpare, findNextGuess_nil]
    have h3 : loopRun (fun _ => (⟨0, 0⟩ : Score)) 1 (some ([] : Code)) []
        ([] ++ [['B', 'G', 'O', 'R']]) = (RunResult.fatal, [defaultFirstGuess]) :=
      loopRun_empty_fatal (fun _ => (⟨0, 0⟩ : Score)) 0 []
        ([] ++ [['B', 'G', 'O', 'R']]) (by decide) (by decide)
    rw [h3]
    rfl
  · decide

end Lockpick
